import Mathlib

/-!
Shallow embedding of `AI_plays_TicTacToe.py` (the same core functions appear verbatim
in `AI_plays_TicTacToe_interactive.py`): the magic-square tables, `score_dict`,
`avail_moves`, `check_player_win` and `minimax`.

Python's board is a 9-element list holding one-character strings (underscore for an
empty cell, or the player letter); a cell is
modelled as `Option Player` (`none` for the underscore) and a board as the function sending a
cell index to its content.  `new_board = board.copy(); new_board[i] = player` becomes
`setCell b i (some p)`: the copy is implicit in the functional update, which leaves
the original board untouched.

`minimax` below is the direct translation, defined by well-founded recursion on the
number of empty cells.  Because well-founded definitions do not reduce inside the
kernel, a fuel-indexed twin `minimaxL` over the underlying 9-element cell list is
also defined and proved equal to `minimax` (`minimaxL_eq_minimax`); all concrete
evaluations of the search go through the twin.
-/

inductive Player where
  | X : Player
  | O : Player
deriving DecidableEq

open Player

abbrev Cell := Option Player

abbrev Board := Nat → Cell

/-- The table `magic = [8, 3, 4, 1, 5, 9, 6, 7, 2]` from the source. -/
def magic : List Int := [8, 3, 4, 1, 5, 9, 6, 7, 2]

/-- Lookup `magic[i]` (in the source the index is always in range). -/
def magicAt (i : Nat) : Int := magic.getD i 0

/-- The inverse dictionary `magic_`; its keys in the source are exactly the nine
magic values and it is only ever queried at such a value (the final catch-all branch
coincides with the entry for the last key, `2`). -/
def magic_ (v : Int) : Nat :=
  if v = 8 then 0 else if v = 3 then 1 else if v = 4 then 2 else if v = 1 then 3
  else if v = 5 then 4 else if v = 9 then 5 else if v = 6 then 6 else if v = 7 then 7
  else 8

/-- The score dictionary from the source: `X` scores `1` and `O` scores `-1`. -/
def score_dict : Player → Int
  | X => 1
  | O => -1

/-- The index enumeration `range(9)` used by the source's comprehensions. -/
def range9 : List Nat := [0, 1, 2, 3, 4, 5, 6, 7, 8]

/-- The empty cells of the board in ascending order, as in the source:
every index of `range(9)` whose cell is empty. -/
def avail_moves (b : Board) : List Nat :=
  range9.filter (fun i => decide (b i = none))

/-- Writing a cell: the source's `new_board[i] = player`, acting on a fresh copy. -/
def setCell (b : Board) (i : Nat) (v : Cell) : Board :=
  fun j => if j = i then v else b j

/-- All unordered pairs of list entries, in the enumeration order of
`itertools.combinations(l, 2)`. -/
def combos2 {α : Type} : List α → List (α × α)
  | [] => []
  | a :: rest => rest.map (fun b => (a, b)) ++ combos2 rest

/-- The function `check_player_win(board, player)` from the source: the first pair of the
player's cells whose magic complement to 15 is the magic value of an empty cell
yields that cell's index together with `score_dict[player]`. -/
def check_player_win (b : Board) (p : Player) : Option (Nat × Int) :=
  let player_moves_ := range9.filter (fun i => decide (b i = some p))
  let avail_magic := (avail_moves b).map (fun i => magicAt i)
  (combos2 player_moves_).findSome? (fun t =>
    let surp : Int := 15 - (magicAt t.1 + magicAt t.2)
    if surp ∈ avail_magic then some (magic_ surp, score_dict p) else none)

/-- The comparison behind `scores.sort(key=lambda x: x[1])`: compare move-score
pairs by score alone. -/
def scoreLE (x y : Nat × Int) : Prop := x.2 ≤ y.2

instance : DecidableRel scoreLE := fun x y => Int.decLe x.2 y.2

lemma countP_lt_countP {α : Type} {l : List α} {p q : α → Bool}
    (hpq : ∀ a ∈ l, q a = true → p a = true) {x : α} (hx : x ∈ l)
    (hp : p x = true) (hq : q x = false) : l.countP q < l.countP p := by
  induction l with
  | nil => cases hx
  | cons a t ih =>
    rcases List.mem_cons.mp hx with rfl | hxt
    · have h1 : t.countP q ≤ t.countP p :=
        List.countP_mono_left (fun a ha hqa => hpq a (List.mem_cons_of_mem _ ha) hqa)
      rw [List.countP_cons, List.countP_cons, hp, hq]
      simp only [if_true]
      simp only [Bool.false_eq_true, if_false]
      omega
    · have h1 : t.countP q < t.countP p :=
        ih (fun a ha hqa => hpq a (List.mem_cons_of_mem _ ha) hqa) hxt
      rw [List.countP_cons, List.countP_cons]
      by_cases hqa : q a = true
      · rw [hqa, hpq a (List.mem_cons_self a t) hqa]; omega
      · simp only [Bool.not_eq_true] at hqa
        rw [hqa]
        simp only [Bool.false_eq_true, if_false]
        split <;> omega

/-- Filling an empty cell strictly decreases the number of available moves: the
decreasing measure justifying `minimax`'s recursion. -/
lemma avail_moves_setCell_length_lt (b : Board) (i : Nat) (p : Player)
    (hi : i ∈ avail_moves b) :
    (avail_moves (setCell b i (some p))).length < (avail_moves b).length := by
  unfold avail_moves at *
  rw [← List.countP_eq_length_filter, ← List.countP_eq_length_filter]
  refine countP_lt_countP (x := i) ?_ (List.mem_filter.mp hi).1 ?_ ?_
  · intro a _ hqa
    by_cases hai : a = i
    · subst hai
      simp [setCell] at hqa
    · simp only [setCell, if_neg hai] at hqa
      exact hqa
  · have := List.of_mem_filter hi
    simpa using this
  · simp [setCell]

/-- The function `minimax(board, player, opp)` from the source.  Python's `list.sort` is a stable
ascending sort, embedded as `List.insertionSort scoreLE`; `scores[-1]` / `scores[0]`
are the `getLast` / head of the sorted list.  Termination: each recursive call fills
one empty cell (`avail_moves_setCell_length_lt`). -/
def minimax (b : Board) (p o : Player) : Option Nat × Int :=
  match check_player_win b p with
  | some (i, s) => (some i, s)
  | none =>
    if avail_moves b = [] then (none, 0)
    else
      let scores := (avail_moves b).attach.map (fun i =>
        (i.1, (minimax (setCell b i.1 (some p)) o p).2))
      match scores.insertionSort scoreLE with
      | [] => (none, 0)
      | t :: ts =>
        let chosen := if p = X then (t :: ts).getLast (List.cons_ne_nil t ts) else t
        (some chosen.1, chosen.2)
termination_by (avail_moves b).length
decreasing_by
  exact avail_moves_setCell_length_lt b i.1 p i.2

/-- Selection of the final move-score pair from the score list: stable ascending
sort, then last entry for `X` (maximiser), first for `O` (minimiser). -/
def pickBest (scores : List (Nat × Int)) (p : Player) : Option Nat × Int :=
  match scores.insertionSort scoreLE with
  | [] => (none, 0)
  | t :: ts =>
    let chosen := if p = X then (t :: ts).getLast (List.cons_ne_nil t ts) else t
    (some chosen.1, chosen.2)

/-- A board given by an explicit 9-element list of cells. -/
def mkBoard (l : List Cell) : Board := fun i => l.getD i none

/-- Fuel-indexed twin of `minimax` over the underlying cell list, structurally
recursive so the kernel can evaluate it; `minimaxL_eq_minimax` below proves it
agrees with `minimax` once the fuel reaches the number of empty cells. -/
def minimaxL : Nat → List Cell → Player → Player → Option Nat × Int
  | 0, l, p, _ =>
    match check_player_win (mkBoard l) p with
    | some (i, s) => (some i, s)
    | none => (none, 0)
  | fuel + 1, l, p, o =>
    match check_player_win (mkBoard l) p with
    | some (i, s) => (some i, s)
    | none =>
      if avail_moves (mkBoard l) = [] then (none, 0)
      else
        pickBest ((avail_moves (mkBoard l)).map (fun i =>
          (i, (minimaxL fuel (l.set i (some p)) o p).2))) p

/-- Updating the underlying cell list matches `setCell` on the board it denotes. -/
lemma setCell_mkb (l : List Cell) (i : Nat) (v : Cell) (h : i < l.length) :
    setCell (mkBoard l) i v = mkBoard (l.set i v) := by
  funext j
  simp only [setCell, mkBoard]
  by_cases hj : j = i
  · subst hj
    rw [if_pos rfl]
    unfold List.getD
    rw [List.get?_eq_getElem?, List.getElem?_set_self h]
    rfl
  · rw [if_neg hj]
    unfold List.getD
    rw [List.get?_eq_getElem?, List.get?_eq_getElem?,
      List.getElem?_set_ne (fun hh => hj hh.symm)]

/-- One unfolding step of `minimaxL` at an undecided, non-full position. -/
lemma minimaxL_succ (fuel : Nat) (l : List Cell) (p o : Player) (av : List Nat)
    (hc : check_player_win (mkBoard l) p = none)
    (hav : avail_moves (mkBoard l) = av) (hne : av ≠ []) :
    minimaxL (fuel + 1) l p o
      = pickBest (av.map (fun i => (i, (minimaxL fuel (l.set i (some p)) o p).2))) p := by
  show (match check_player_win (mkBoard l) p with
    | some (i, s) => (some i, s)
    | none =>
      if avail_moves (mkBoard l) = [] then ((none, 0) : Option Nat × Int)
      else
        pickBest ((avail_moves (mkBoard l)).map (fun i =>
          (i, (minimaxL fuel (l.set i (some p)) o p).2))) p) = _
  rw [hc, hav, if_neg hne]

/-- With fuel at least the number of empty cells, the structural twin computes
exactly `minimax`; in particular fuel `9` always suffices. -/
theorem minimaxL_eq_minimax (fuel : Nat) : ∀ (l : List Cell) (p o : Player),
    l.length = 9 → (avail_moves (mkBoard l)).length ≤ fuel →
    minimaxL fuel l p o = minimax (mkBoard l) p o := by
  induction fuel with
  | zero =>
    intro l p o hlen hf
    have hav : avail_moves (mkBoard l) = [] :=
      List.length_eq_zero.mp (Nat.le_zero.mp hf)
    rw [minimax.eq_def]
    show (match check_player_win (mkBoard l) p with
      | some (i, s) => (some i, s)
      | none => (none, 0)) = _
    cases hcheck : check_player_win (mkBoard l) p with
    | some r => simp [hav]
    | none => simp [hav]
  | succ fuel ih =>
    intro l p o hlen hf
    rw [minimax.eq_def]
    show (match check_player_win (mkBoard l) p with
      | some (i, s) => (some i, s)
      | none =>
        if avail_moves (mkBoard l) = [] then ((none, 0) : Option Nat × Int)
        else
          pickBest ((avail_moves (mkBoard l)).map (fun i =>
            (i, (minimaxL fuel (l.set i (some p)) o p).2))) p) = _
    cases hcheck : check_player_win (mkBoard l) p with
    | some r => rfl
    | none =>
      by_cases hav : avail_moves (mkBoard l) = []
      · rw [if_pos hav, if_pos hav]
      · rw [if_neg hav, if_neg hav]
        have hscores : (avail_moves (mkBoard l)).map (fun i =>
              (i, (minimaxL fuel (l.set i (some p)) o p).2))
            = (avail_moves (mkBoard l)).attach.map (fun i =>
              (i.1, (minimax (setCell (mkBoard l) i.1 (some p)) o p).2)) := by
          apply List.ext_getElem
          · simp
          · intro k h1 h2
            have hk : k < (avail_moves (mkBoard l)).length := by
              simpa using h1
            simp only [List.getElem_map, List.getElem_attach]
            have hmem : (avail_moves (mkBoard l))[k] ∈ avail_moves (mkBoard l) :=
              List.getElem_mem _
            set i := (avail_moves (mkBoard l))[k] with hidef
            have hi9 : i < l.length := by
              have h9 : i ∈ range9 := (List.mem_filter.mp hmem).1
              have : i < 9 := by
                simp only [range9, List.mem_cons, List.not_mem_nil, or_false] at h9
                omega
              omega
            have hset : setCell (mkBoard l) i (some p) = mkBoard (l.set i (some p)) :=
              setCell_mkb l i (some p) hi9
            have hlt : (avail_moves (mkBoard (l.set i (some p)))).length
                ≤ fuel := by
              have := avail_moves_setCell_length_lt (mkBoard l) i p hmem
              rw [hset] at this
              omega
            have := ih (l.set i (some p)) o p (by simp [hlen]) hlt
            rw [this, hset]
        rw [hscores]
        rfl

lemma mem_range9 (i : Nat) : i ∈ range9 ↔ i < 9 := by
  constructor
  · intro h
    simp only [range9, List.mem_cons, List.not_mem_nil, or_false] at h
    omega
  · intro h
    simp only [range9, List.mem_cons, List.not_mem_nil, or_false]
    omega

lemma magic_magicAt (i : Nat) (h : i < 9) : magic_ (magicAt i) = i := by
  interval_cases i <;> rfl

lemma mem_avail_moves (b : Board) (i : Nat) : i ∈ avail_moves b ↔ i < 9 ∧ b i = none := by
  unfold avail_moves
  rw [List.mem_filter, mem_range9]
  simp

/-- On a board with no empty cell `check_player_win` finds nothing: the candidate
completion is required to be an available (empty) cell. -/
lemma check_player_win_of_no_avail (b : Board) (p : Player) (h : avail_moves b = []) :
    check_player_win b p = none := by
  unfold check_player_win
  apply List.findSome?_eq_none_iff.mpr
  intro t _
  rw [h]
  simp

/-- C5: on a board with no empty cells, `minimax` returns the drawn-terminal result
`(no move, score 0)` and `findWinningMove` (`check_player_win`) reports no winner. -/
theorem C5_full_board_draw (b : Board) (p o : Player) (h : avail_moves b = []) :
    minimax b p o = (none, 0) ∧ check_player_win b p = none := by
  have hc : check_player_win b p = none := check_player_win_of_no_avail b p h
  constructor
  · rw [minimax.eq_def, hc]
    simp [h]
  · exact hc

/-- Witness for C5 at a concrete full board. -/
theorem C5_witness :
    minimax (mkBoard [some X, some X, some O, some O, some O, some X, some X, some O, some X]) X O
        = (none, 0)
      ∧ check_player_win
          (mkBoard [some X, some X, some O, some O, some O, some X, some X, some O, some X]) X
        = none :=
  C5_full_board_draw
    (mkBoard [some X, some X, some O, some O, some O, some X, some X, some O, some X]) X O
    (by decide)

/-- The 8 winning lines of the 3×3 board (3 rows, 3 columns, 2 diagonals). -/
def lines : List (Nat × Nat × Nat) :=
  [(0, 1, 2), (3, 4, 5), (6, 7, 8), (0, 3, 6), (1, 4, 7), (2, 5, 8), (0, 4, 8), (2, 4, 6)]

/-- The three cells of a winning line. -/
def lineCells (t : Nat × Nat × Nat) : List Nat := [t.1, t.2.1, t.2.2]

/-- C6: in the fixed magic mapping, every winning line has magic values summing to
15, and conversely any three distinct cells whose magic values sum to 15 form (up to
order) one of the 8 winning lines — no other triple sums to 15. -/
theorem C6_magic_characterises_lines :
    (∀ t ∈ lines, magicAt t.1 + magicAt t.2.1 + magicAt t.2.2 = 15)
    ∧ (∀ a b c : Fin 9, a ≠ b → a ≠ c → b ≠ c →
        magicAt a.1 + magicAt b.1 + magicAt c.1 = 15 →
        ∃ t ∈ lines, (lineCells t).Perm [a.1, b.1, c.1]) := by
  constructor
  · decide
  · decide

/-- Witness for C6: the top row, and the concrete triple `0, 1, 2`. -/
theorem C6_witness :
    magicAt 0 + magicAt 1 + magicAt 2 = 15
      ∧ ∃ t ∈ lines, (lineCells t).Perm [(0 : Fin 9).1, (1 : Fin 9).1, (2 : Fin 9).1] :=
  ⟨C6_magic_characterises_lines.1 (0, 1, 2) (by decide),
   C6_magic_characterises_lines.2 0 1 2
     (by decide) (by decide) (by decide) (by decide)⟩

/-- C9: the encoding round-trips: for every board index `i` in `0..8`,
`magic_[magic[i]] = i`. -/
theorem C9_roundtrip (i : Nat) (h : i < 9) : magic_ (magicAt i) = i := by
  interval_cases i <;> rfl

/-- Witness for C9 at the concrete index `5`. -/
theorem C9_witness : magic_ (magicAt 5) = 5 := C9_roundtrip 5 (by decide)

/-- C8: the recursion of `minimax` is well-founded: placing a mark on any available
cell strictly decreases the number of empty cells, which is itself at most 9.  (Lean
accepts `minimax` precisely by this measure, so the search terminates on every
board.) -/
theorem C8_minimax_terminates (b : Board) (i : Nat) (p : Player)
    (hi : i ∈ avail_moves b) :
    (avail_moves (setCell b i (some p))).length < (avail_moves b).length
      ∧ (avail_moves b).length ≤ 9 :=
  ⟨avail_moves_setCell_length_lt b i p hi, List.length_filter_le _ _⟩

/-- Witness for C8 on the empty board at cell `0`. -/
theorem C8_witness :
    (avail_moves (setCell (mkBoard [none, none, none, none, none, none, none, none, none]) 0
          (some X))).length
        < (avail_moves (mkBoard [none, none, none, none, none, none, none, none, none])).length
      ∧ (avail_moves (mkBoard [none, none, none, none, none, none, none, none, none])).length ≤ 9 :=
  C8_minimax_terminates (mkBoard [none, none, none, none, none, none, none, none, none]) 0 X
    (by decide)

/-- The `IllegalMove` error condition of the spec's `applyMove` interface. -/
inductive MoveError where
  | IllegalMove : MoveError
deriving DecidableEq

/-- Modelled from the spec: the repository has no `applyMove` function (its shell in
`main` validates moves inline and re-prompts), so this follows §6 of the spec:
`applyMove(board, index, mark) -> Board` fails with an `IllegalMove` condition if
`index` is out of `0..8` or the target cell is not empty, and otherwise returns the
board with `mark` placed at `index`.  The embedding is pure: the argument board is
never modified, so on failure the caller's board is trivially left unchanged. -/
def applyMove (b : Board) (index : Int) (mark : Player) : Except MoveError Board :=
  if index < 0 ∨ 8 < index then .error .IllegalMove
  else if b index.toNat ≠ none then .error .IllegalMove
  else .ok (setCell b index.toNat (some mark))

/-- C2: `applyMove` fails with `IllegalMove` exactly when the index is out of `0..8`
or the target cell is occupied; otherwise it returns the board with the mark placed
at the index.  (Failure returns no board at all and the embedding is pure, so the
input board is unchanged on failure.) -/
theorem C2_applyMove_illegal_iff (b : Board) (index : Int) (mark : Player) :
    (applyMove b index mark = Except.error MoveError.IllegalMove
      ↔ ((index < 0 ∨ 8 < index) ∨ b index.toNat ≠ none))
    ∧ (¬ (index < 0 ∨ 8 < index) → b index.toNat = none →
        applyMove b index mark = Except.ok (setCell b index.toNat (some mark))) := by
  unfold applyMove
  constructor
  · constructor
    · intro h
      by_cases h1 : index < 0 ∨ 8 < index
      · exact Or.inl h1
      · rw [if_neg h1] at h
        by_cases h2 : b index.toNat ≠ none
        · exact Or.inr h2
        · rw [if_neg h2] at h
          cases h
    · intro h
      rcases h with h1 | h2
      · rw [if_pos h1]
      · by_cases h1 : index < 0 ∨ 8 < index
        · rw [if_pos h1]
        · rw [if_neg h1, if_pos h2]
  · intro h1 h2
    rw [if_neg h1, if_neg (by simp [h2])]

/-- Witness for C2: placing on the occupied cell `0` fails, placing on the empty
cell `1` succeeds. -/
theorem C2_witness :
    applyMove (mkBoard [some X, none, none, none, none, none, none, none, none]) 0 O
        = Except.error MoveError.IllegalMove
      ∧ applyMove (mkBoard [some X, none, none, none, none, none, none, none, none]) 1 O
        = Except.ok (setCell (mkBoard [some X, none, none, none, none, none, none, none, none])
            ((1 : Int)).toNat (some O)) :=
  ⟨(C2_applyMove_illegal_iff (mkBoard [some X, none, none, none, none, none, none, none, none])
      0 O).1.mpr (Or.inr (by decide)),
   (C2_applyMove_illegal_iff (mkBoard [some X, none, none, none, none, none, none, none, none])
      1 O).2 (by decide) (by decide)⟩

/-- C10: whenever `check_player_win` returns a result `(index, score)`, the index is
an empty cell of the board (so playing there is legal), and the score is `+1` for
`X` and `-1` for `O`. -/
theorem C10_check_win_safe (b : Board) (p : Player) (r : Nat × Int)
    (h : check_player_win b p = some r) :
    b r.1 = none ∧ r.2 = (if p = X then 1 else -1) := by
  unfold check_player_win at h
  obtain ⟨t, _, hft⟩ := List.exists_of_findSome?_eq_some h
  dsimp only at hft
  split at hft
  case isTrue hmem =>
    obtain ⟨c, hc, hcm⟩ := List.mem_map.mp hmem
    obtain ⟨hc9, hcnone⟩ := (mem_avail_moves b c).mp hc
    obtain ⟨hr1, hr2⟩ := Prod.mk.injEq .. ▸ Option.some.injEq .. ▸ hft
    constructor
    · rw [← hr1, ← hcm, magic_magicAt c hc9]
      exact hcnone
    · rw [← hr2]
      cases p <;> rfl
  case isFalse => cases hft

lemma mem_of_mem_combos2 {α : Type} {x y : α} :
    ∀ {l : List α}, (x, y) ∈ combos2 l → x ∈ l ∧ y ∈ l := by
  intro l
  induction l with
  | nil => intro h; cases h
  | cons a t ih =>
    intro h
    rw [combos2] at h
    rcases List.mem_append.mp h with h1 | h2
    · obtain ⟨c, hc, heq⟩ := List.mem_map.mp h1
      obtain ⟨rfl, rfl⟩ : a = x ∧ c = y := by
        constructor <;> [exact congrArg Prod.fst heq; exact congrArg Prod.snd heq]
      exact ⟨List.mem_cons_self _ _, List.mem_cons_of_mem _ hc⟩
    · have h3 := ih h2
      exact ⟨List.mem_cons_of_mem _ h3.1, List.mem_cons_of_mem _ h3.2⟩

lemma ne_of_mem_combos2 {α : Type} {x y : α} :
    ∀ {l : List α}, l.Nodup → (x, y) ∈ combos2 l → x ≠ y := by
  intro l
  induction l with
  | nil => intro _ h; cases h
  | cons a t ih =>
    intro hnd h
    rw [combos2] at h
    rcases List.mem_append.mp h with h1 | h2
    · obtain ⟨c, hc, heq⟩ := List.mem_map.mp h1
      obtain ⟨rfl, rfl⟩ : a = x ∧ c = y := by
        constructor <;> [exact congrArg Prod.fst heq; exact congrArg Prod.snd heq]
      intro hxy
      exact (List.nodup_cons.mp hnd).1 (hxy ▸ hc)
    · exact ih (List.nodup_cons.mp hnd).2 h2

lemma combos2_mem_of_both {α : Type} {x y : α} :
    ∀ {l : List α}, x ∈ l → y ∈ l → x ≠ y →
      (x, y) ∈ combos2 l ∨ (y, x) ∈ combos2 l := by
  intro l
  induction l with
  | nil => intro h; cases h
  | cons a t ih =>
    intro hx hy hxy
    rw [combos2]
    rcases List.mem_cons.mp hx with rfl | hxt
    · rcases List.mem_cons.mp hy with rfl | hyt
      · exact absurd rfl hxy
      · exact Or.inl (List.mem_append_left _ (List.mem_map.mpr ⟨y, hyt, rfl⟩))
    · rcases List.mem_cons.mp hy with rfl | hyt
      · exact Or.inr (List.mem_append_left _ (List.mem_map.mpr ⟨x, hxt, rfl⟩))
      · rcases ih hxt hyt hxy with h | h
        · exact Or.inl (List.mem_append_right _ h)
        · exact Or.inr (List.mem_append_right _ h)

lemma combos2_nil_of_short {α : Type} :
    ∀ {l : List α}, l.length < 2 → combos2 l = [] := by
  intro l
  match l with
  | [] => intro _; rfl
  | [a] => intro _; rfl
  | a :: b :: t =>
    intro h
    exact absurd h (by simp only [List.length_cons]; omega)

lemma line_cells_lt9 : ∀ t ∈ lines, ∀ y ∈ lineCells t, y < 9 := by decide

lemma line_complement : ∀ t ∈ lines, ∀ x ∈ lineCells t,
    ∃ y ∈ lineCells t, ∃ z ∈ lineCells t, y ≠ x ∧ z ≠ x ∧ y ≠ z ∧
      magicAt x = 15 - (magicAt y + magicAt z) := by decide

lemma triple_sum_line : ∀ (a b c : Fin 9), a ≠ b → a ≠ c → b ≠ c →
    magicAt a.1 + magicAt b.1 + magicAt c.1 = 15 →
    ∃ t ∈ lines, (lineCells t).Perm [a.1, b.1, c.1] := by decide

lemma range9_nodup : range9.Nodup := by decide

/-- C3: `check_player_win` (`findWinningMove`) returns a result if and only if the
player has two marks on a common winning line whose third cell is empty; in
particular it returns nothing whenever the player has fewer than two marks. -/
theorem C3_winning_move_iff (b : Board) (p : Player) :
    ((check_player_win b p).isSome ↔
      ∃ t ∈ lines, ∃ x ∈ lineCells t,
        b x = none ∧ ∀ y ∈ lineCells t, y ≠ x → b y = some p)
    ∧ ((range9.filter (fun i => decide (b i = some p))).length < 2 →
        check_player_win b p = none) := by
  constructor
  · constructor
    · -- a hit of the pair scan yields two marks on a line with empty completion
      intro hsome
      unfold check_player_win at hsome
      rw [List.findSome?_isSome_iff] at hsome
      obtain ⟨t, htmem, htsome⟩ := hsome
      dsimp only at htsome
      by_cases hmem : (15 - (magicAt t.1 + magicAt t.2))
          ∈ (avail_moves b).map (fun i => magicAt i)
      case neg => rw [if_neg hmem] at htsome; cases htsome
      obtain ⟨c, hcav, hcm⟩ := List.mem_map.mp hmem
      obtain ⟨hc9, hcnone⟩ := (mem_avail_moves b c).mp hcav
      have hpm := mem_of_mem_combos2 htmem
      have hynd : t.1 ≠ t.2 :=
        ne_of_mem_combos2 (List.Nodup.filter _ range9_nodup) htmem
      obtain ⟨hy9, hby⟩ : t.1 < 9 ∧ b t.1 = some p := by
        have h1 := List.mem_filter.mp hpm.1
        exact ⟨(mem_range9 _).mp h1.1, by simpa using h1.2⟩
      obtain ⟨hz9, hbz⟩ : t.2 < 9 ∧ b t.2 = some p := by
        have h1 := List.mem_filter.mp hpm.2
        exact ⟨(mem_range9 _).mp h1.1, by simpa using h1.2⟩
      have hcy : c ≠ t.1 := fun h => by rw [h, hby] at hcnone; cases hcnone
      have hcz : c ≠ t.2 := fun h => by rw [h, hbz] at hcnone; cases hcnone
      have hsum : magicAt t.1 + magicAt t.2 + magicAt c = 15 := by omega
      obtain ⟨tl, htl, hperm⟩ :=
        triple_sum_line ⟨t.1, hy9⟩ ⟨t.2, hz9⟩ ⟨c, hc9⟩
          (fun h => hynd (Fin.mk.injEq .. ▸ h))
          (fun h => hcy (Fin.mk.injEq .. ▸ h).symm)
          (fun h => hcz (Fin.mk.injEq .. ▸ h).symm)
          hsum
      refine ⟨tl, htl, c, ?_, hcnone, ?_⟩
      · exact hperm.mem_iff.mpr (by simp)
      · intro y hy hyc
        have : y ∈ [t.1, t.2, c] := hperm.mem_iff.mp hy
        rcases List.mem_cons.mp this with rfl | this
        · exact hby
        rcases List.mem_cons.mp this with rfl | this
        · exact hbz
        rcases List.mem_cons.mp this with rfl | this
        · exact absurd rfl hyc
        · cases this
    · -- two marks on a line with empty third cell produce a hit
      intro hline
      obtain ⟨t, ht, x, hx, hxnone, hothers⟩ := hline
      obtain ⟨y, hy, z, hz, hyx, hzx, hyz, hmagic⟩ := line_complement t ht x hx
      have hby : b y = some p := hothers y hy hyx
      have hbz : b z = some p := hothers z hz hzx
      have hy9 : y < 9 := line_cells_lt9 t ht y hy
      have hz9 : z < 9 := line_cells_lt9 t ht z hz
      have hx9 : x < 9 := line_cells_lt9 t ht x hx
      have hypm : y ∈ range9.filter (fun i => decide (b i = some p)) :=
        List.mem_filter.mpr ⟨(mem_range9 _).mpr hy9, by simp [hby]⟩
      have hzpm : z ∈ range9.filter (fun i => decide (b i = some p)) :=
        List.mem_filter.mpr ⟨(mem_range9 _).mpr hz9, by simp [hbz]⟩
      have hxav : magicAt x ∈ (avail_moves b).map (fun i => magicAt i) :=
        List.mem_map.mpr ⟨x, (mem_avail_moves b x).mpr ⟨hx9, hxnone⟩, rfl⟩
      unfold check_player_win
      rw [List.findSome?_isSome_iff]
      rcases combos2_mem_of_both hypm hzpm hyz with hpair | hpair
      · refine ⟨(y, z), hpair, ?_⟩
        dsimp only
        have h2 : (15 : Int) - (magicAt y + magicAt z) = magicAt x := by omega
        rw [if_pos (h2 ▸ hxav)]
        rfl
      · refine ⟨(z, y), hpair, ?_⟩
        dsimp only
        have h2 : (15 : Int) - (magicAt z + magicAt y) = magicAt x := by omega
        rw [if_pos (h2 ▸ hxav)]
        rfl
  · -- fewer than two marks: the pair scan is empty
    intro hshort
    unfold check_player_win
    dsimp only
    rw [combos2_nil_of_short hshort]
    rfl

/-- Witness for C3: on the board `X X _ / O O _ / _ _ _` player `X` has a winning
completion (top row at cell 2), and on the empty board no player has one. -/
theorem C3_witness :
    ((check_player_win (mkBoard [some X, some X, none, some O, some O, none, none, none, none])
        X).isSome
      ↔ ∃ t ∈ lines, ∃ x ∈ lineCells t,
          mkBoard [some X, some X, none, some O, some O, none, none, none, none] x = none
          ∧ ∀ y ∈ lineCells t, y ≠ x →
              mkBoard [some X, some X, none, some O, some O, none, none, none, none] y = some X)
    ∧ check_player_win (mkBoard [none, none, none, none, none, none, none, none, none]) O
      = none :=
  ⟨(C3_winning_move_iff
      (mkBoard [some X, some X, none, some O, some O, none, none, none, none]) X).1,
   (C3_winning_move_iff (mkBoard [none, none, none, none, none, none, none, none, none]) O).2
     (by decide)⟩

/-- Witness for C10 on the board `X X _ / O O _ / _ _ _`, where the scan returns
cell `2` with score `1`. -/
theorem C10_witness :
    mkBoard [some X, some X, none, some O, some O, none, none, none, none] (2, (1 : Int)).1 = none
      ∧ ((2 : Nat), (1 : Int)).2 = (if X = X then 1 else -1) :=
  C10_check_win_safe (mkBoard [some X, some X, none, some O, some O, none, none, none, none])
    X (2, 1) (by decide)

instance : IsTotal (Nat × Int) scoreLE := ⟨fun a b => Int.le_total a.2 b.2⟩

instance : IsTrans (Nat × Int) scoreLE := ⟨fun _ _ _ hab hbc => le_trans hab hbc⟩

/-- The candidate list built by `minimax` at a non-terminal position: each available
cell paired with the score of the position after playing it. -/
def scoresOf (b : Board) (p o : Player) : List (Nat × Int) :=
  (avail_moves b).map (fun i => (i, (minimax (setCell b i (some p)) o p).2))

/-- At an undecided, non-full position `minimax` selects from `scoresOf` by the
stable ascending sort. -/
lemma minimax_nonterminal (b : Board) (p o : Player)
    (hc : check_player_win b p = none) (hne : avail_moves b ≠ []) :
    minimax b p o = pickBest (scoresOf b p o) p := by
  have hsc : (avail_moves b).attach.map
        (fun i => (i.1, (minimax (setCell b i.1 (some p)) o p).2))
      = scoresOf b p o :=
    List.attach_map_val (avail_moves b)
      (fun j => (j, (minimax (setCell b j (some p)) o p).2))
  rw [minimax.eq_def, hc, if_neg hne]
  show pickBest ((avail_moves b).attach.map
    (fun i => (i.1, (minimax (setCell b i.1 (some p)) o p).2))) p = _
  rw [hsc]

lemma pair_sublist_of_pairwise {α : Type} {R : α → α → Prop}
    (hasym : ∀ x y, R x y → ¬ R y x) :
    ∀ {l : List α}, l.Pairwise R → ∀ {u v : α}, u ∈ l → v ∈ l → R u v →
      List.Sublist [u, v] l := by
  intro l
  induction l with
  | nil => intro _ u v hu; cases hu
  | cons a t ih =>
    intro hpw u v hu hv huv
    obtain ⟨hahead, htail⟩ := List.pairwise_cons.mp hpw
    rcases List.mem_cons.mp hu with rfl | hut
    · rcases List.mem_cons.mp hv with rfl | hvt
      · exact absurd huv (hasym _ _ huv)
      · exact List.Sublist.cons₂ u (List.singleton_sublist.mpr hvt)
    · rcases List.mem_cons.mp hv with rfl | hvt
      · exact absurd (hahead u hut) (hasym u v huv)
      · exact List.Sublist.cons a (ih htail hut hvt huv)

lemma ne_getLast_of_pair_sublist {α : Type} {l : List α} (hnd : l.Nodup) (hne : l ≠ [])
    {u v : α} (hsub : List.Sublist [u, v] l) : u ≠ l.getLast hne := by
  intro hu
  have hdec : l.dropLast ++ [l.getLast hne] = l := List.dropLast_append_getLast hne
  rw [← hdec] at hsub hnd
  rw [List.sublist_append_iff] at hsub
  obtain ⟨c1, c2, hc, h1, h2⟩ := hsub
  have hdisj := (List.nodup_append.mp hnd).2.2
  have humem : u ∈ c1 := by
    cases c1 with
    | nil =>
      rw [List.nil_append] at hc
      have := h2.length_le
      rw [← hc] at this
      simp at this
    | cons w ws =>
      have : w = u := by
        have := congrArg (fun s => s.headD u) hc
        simpa using this.symm
      rw [this]
      exact List.mem_cons_self _ _
  exact hdisj (h1.subset humem) (by rw [hu]; exact List.mem_singleton.mpr rfl)

lemma ne_head_of_pair_sublist {α : Type} {x : α} {t : List α} (hnd : (x :: t).Nodup)
    {u v : α} (hsub : List.Sublist [u, v] (x :: t)) : v ≠ x := by
  intro hv
  cases hsub with
  | cons _ h =>
    have hvt : v ∈ t := h.subset (by simp)
    exact (List.nodup_cons.mp hnd).1 (hv ▸ hvt)
  | cons₂ _ h =>
    have hvt : v ∈ t := h.subset (by simp)
    exact (List.nodup_cons.mp hnd).1 (hv ▸ hvt)

lemma scoresOf_pairwise_fst (b : Board) (p o : Player) :
    (scoresOf b p o).Pairwise (fun x y => x.1 < y.1) := by
  have hr9 : range9.Pairwise (· < ·) := by decide
  have hav : (avail_moves b).Pairwise (· < ·) :=
    hr9.sublist (List.filter_sublist _)
  exact List.pairwise_map.mpr (hav.imp (fun h => h))

/-- C1 (amended): on every board where `minimax` enumerates candidate moves, the
returned pair is a candidate with the extremal score, and among equally-scored
candidates the returned cell is the HIGHEST-index one when the mover is `X`
(Python's `scores[-1]` takes the last entry of the stable ascending sort) and the
lowest-index one when the mover is `O` (`scores[0]`). -/
theorem C1_tie_break (b : Board) (p o : Player)
    (hc : check_player_win b p = none) (hne : avail_moves b ≠ []) :
    ∃ i s, minimax b p o = (some i, s) ∧ (i, s) ∈ scoresOf b p o
      ∧ ∀ js ∈ scoresOf b p o,
          (p = X → js.2 ≤ s ∧ (js.2 = s → js.1 ≤ i))
          ∧ (p = O → s ≤ js.2 ∧ (js.2 = s → i ≤ js.1)) := by
  have hasym : ∀ x y : Nat × Int, x.1 < y.1 → ¬ y.1 < x.1 := by
    intro x y h1 h2
    omega
  have hfst := scoresOf_pairwise_fst b p o
  have hnd : (scoresOf b p o).Nodup := by
    refine hfst.imp ?_
    intro a c h heq
    rw [heq] at h
    omega
  have hperm : List.Perm ((scoresOf b p o).insertionSort scoreLE) (scoresOf b p o) :=
    List.perm_insertionSort _ _
  have hsorted : ((scoresOf b p o).insertionSort scoreLE).Pairwise scoreLE :=
    List.sorted_insertionSort _ _
  have hndsort : ((scoresOf b p o).insertionSort scoreLE).Nodup :=
    (hperm.nodup_iff).mpr hnd
  rw [minimax_nonterminal b p o hc hne]
  cases hs : (scoresOf b p o).insertionSort scoreLE with
  | nil =>
    exfalso
    have : scoresOf b p o = [] := (hs ▸ hperm).symm.eq_nil
    unfold scoresOf at this
    exact hne (List.map_eq_nil_iff.mp this)
  | cons t ts =>
    rw [hs] at hperm hsorted hndsort
    unfold pickBest
    rw [hs]
    by_cases hp : p = X
    · -- maximiser: last entry of the sorted list
      subst hp
      set c := (t :: ts).getLast (List.cons_ne_nil t ts) with hcdef
      have hcmem : c ∈ t :: ts := List.getLast_mem _
      have hcsc : c ∈ scoresOf b X o := hperm.mem_iff.mp hcmem
      refine ⟨c.1, c.2, rfl, hcsc, ?_⟩
      intro js hjs
      constructor
      · intro _
        have hjsort : js ∈ t :: ts := hperm.mem_iff.mpr hjs
        have hdec : (t :: ts).dropLast ++ [c] = t :: ts :=
          List.dropLast_append_getLast (List.cons_ne_nil t ts)
        constructor
        · -- extremal: everything is `scoreLE` the last element of the sorted list
          rw [← hdec] at hjsort hsorted
          rcases List.mem_append.mp hjsort with hjd | hjc
          · exact (List.pairwise_append.mp hsorted).2.2 js hjd c
              (List.mem_singleton.mpr rfl)
          · rw [List.mem_singleton.mp hjc]
        · -- tie-break: an equally-scored candidate has index at most `c.1`
          intro hjs2
          by_contra hlt
          push_neg at hlt
          have hcjs : c ≠ js := by
            intro h
            rw [h] at hlt
            omega
          have hpair : List.Sublist [c, js] (scoresOf b X o) :=
            pair_sublist_of_pairwise hasym hfst hcsc hjs hlt
          have hpair2 : List.Sublist [c, js] (t :: ts) := by
            rw [← hs]
            exact List.pair_sublist_insertionSort (le_of_eq hjs2.symm) hpair
          exact ne_getLast_of_pair_sublist hndsort (List.cons_ne_nil t ts) hpair2 hcdef.symm
      · intro hpo
        exact absurd hpo (by decide)
    · -- minimiser: head of the sorted list
      have hpO : p = O := by
        cases p with
        | X => exact absurd rfl hp
        | O => rfl
      subst hpO
      have htmem : t ∈ t :: ts := List.mem_cons_self _ _
      have htsc : t ∈ scoresOf b O o := hperm.mem_iff.mp htmem
      refine ⟨t.1, t.2, rfl, htsc, ?_⟩
      intro js hjs
      constructor
      · intro hpx
        exact absurd hpx (by decide)
      · intro _
        have hjsort : js ∈ t :: ts := hperm.mem_iff.mpr hjs
        constructor
        · -- extremal: the head of the ascending sort is `scoreLE` everything
          rcases List.mem_cons.mp hjsort with rfl | hjt
          · exact le_refl _
          · exact List.rel_of_pairwise_cons hsorted hjt
        · -- tie-break: an equally-scored candidate has index at least `t.1`
          intro hjs2
          by_contra hlt
          push_neg at hlt
          have hpair : List.Sublist [js, t] (scoresOf b O o) :=
            pair_sublist_of_pairwise hasym hfst hjs htsc hlt
          have hpair2 : List.Sublist [js, t] (t :: ts) := by
            rw [← hs]
            exact List.pair_sublist_insertionSort (le_of_eq hjs2) hpair
          exact ne_head_of_pair_sublist hndsort hpair2 rfl

/-- The board `O O X / X O _ / X _ _` with `X` to move: a reachable position in
which every available move has the same (extremal) score. -/
def boardC1 : List Cell :=
  [some O, some O, some X, some X, some O, none, some X, none, none]

/-- Counterexample to C1 as stated: on `boardC1` the mover `X` has no immediate
win, the empty cells are `5, 7, 8`, all three moves score `-1` (so all are tied at
the maximal score), yet `minimax` returns cell `8`, not the lowest-index tied cell
`5`. -/
theorem C1_counterexample :
    check_player_win (mkBoard boardC1) X = none
    ∧ avail_moves (mkBoard boardC1) = [5, 7, 8]
    ∧ (minimax (setCell (mkBoard boardC1) 5 (some X)) O X).2 = -1
    ∧ (minimax (setCell (mkBoard boardC1) 7 (some X)) O X).2 = -1
    ∧ (minimax (setCell (mkBoard boardC1) 8 (some X)) O X).2 = -1
    ∧ minimax (mkBoard boardC1) X O = (some 8, -1)
    ∧ (8 : Nat) ≠ 5 := by
  refine ⟨by decide, by decide, ?_, ?_, ?_, ?_, by decide⟩
  · rw [setCell_mkb boardC1 5 (some X) (by decide),
      ← minimaxL_eq_minimax 2 (boardC1.set 5 (some X)) O X (by decide) (by decide)]
    decide
  · rw [setCell_mkb boardC1 7 (some X) (by decide),
      ← minimaxL_eq_minimax 2 (boardC1.set 7 (some X)) O X (by decide) (by decide)]
    decide
  · rw [setCell_mkb boardC1 8 (some X) (by decide),
      ← minimaxL_eq_minimax 2 (boardC1.set 8 (some X)) O X (by decide) (by decide)]
    decide
  · rw [← minimaxL_eq_minimax 3 boardC1 X O (by decide) (by decide)]
    decide

/-- Witness for the amended C1 on `boardC1` with `X` to move. -/
theorem C1_witness :
    ∃ i s, minimax (mkBoard boardC1) X O = (some i, s)
      ∧ (i, s) ∈ scoresOf (mkBoard boardC1) X O
      ∧ ∀ js ∈ scoresOf (mkBoard boardC1) X O,
          (X = X → js.2 ≤ s ∧ (js.2 = s → js.1 ≤ i))
          ∧ (X = O → s ≤ js.2 ∧ (js.2 = s → i ≤ js.1)) :=
  C1_tie_break (mkBoard boardC1) X O (by decide) (by decide)

/-- State-threading mirror of `minimax`: alongside the result it returns the final
value of the caller's board object.  In the source each recursive exploration works
on `new_board = board.copy()` and only ever writes to that copy, so the threaded
board is returned untouched in every branch; `C7_minimax_no_mutation` proves both
this frame property and that the result agrees with `minimax`. -/
def minimaxM (b : Board) (p o : Player) : (Option Nat × Int) × Board :=
  match check_player_win b p with
  | some (i, s) => ((some i, s), b)
  | none =>
    if avail_moves b = [] then ((none, 0), b)
    else
      let scores := (avail_moves b).attach.map (fun i =>
        (i.1, ((minimaxM (setCell b i.1 (some p)) o p).1).2))
      match scores.insertionSort scoreLE with
      | [] => ((none, 0), b)
      | t :: ts =>
        let chosen := if p = X then (t :: ts).getLast (List.cons_ne_nil t ts) else t
        ((some chosen.1, chosen.2), b)
termination_by (avail_moves b).length
decreasing_by
  exact avail_moves_setCell_length_lt b i.1 p i.2

/-- The candidate list built by `minimaxM`. -/
def scoresOfM (b : Board) (p o : Player) : List (Nat × Int) :=
  (avail_moves b).map (fun i => (i, ((minimaxM (setCell b i (some p)) o p).1).2))

lemma minimax_check_some (b : Board) (p o : Player) (i : Nat) (s : Int)
    (hc : check_player_win b p = some (i, s)) : minimax b p o = (some i, s) := by
  rw [minimax.eq_def, hc]

lemma minimax_no_avail (b : Board) (p o : Player) (hav : avail_moves b = []) :
    minimax b p o = (none, 0) := by
  rw [minimax.eq_def, check_player_win_of_no_avail b p hav]
  simp [hav]

lemma minimaxM_check_some (b : Board) (p o : Player) (i : Nat) (s : Int)
    (hc : check_player_win b p = some (i, s)) : minimaxM b p o = ((some i, s), b) := by
  rw [minimaxM.eq_def, hc]

lemma minimaxM_no_avail (b : Board) (p o : Player) (hav : avail_moves b = []) :
    minimaxM b p o = ((none, 0), b) := by
  rw [minimaxM.eq_def, check_player_win_of_no_avail b p hav]
  simp [hav]

lemma minimaxM_nonterminal (b : Board) (p o : Player)
    (hc : check_player_win b p = none) (hne : avail_moves b ≠ []) :
    minimaxM b p o = (pickBest (scoresOfM b p o) p, b) := by
  have hsc : (avail_moves b).attach.map
        (fun i => (i.1, ((minimaxM (setCell b i.1 (some p)) o p).1).2))
      = scoresOfM b p o :=
    List.attach_map_val (avail_moves b)
      (fun j => (j, ((minimaxM (setCell b j (some p)) o p).1).2))
  rw [minimaxM.eq_def, hc, if_neg hne]
  show (match ((avail_moves b).attach.map
      (fun i => (i.1, ((minimaxM (setCell b i.1 (some p)) o p).1).2))).insertionSort scoreLE with
    | [] => (((none, 0) : Option Nat × Int), b)
    | t :: ts =>
      let chosen := if p = X then (t :: ts).getLast (List.cons_ne_nil t ts) else t
      ((some chosen.1, chosen.2), b)) = _
  rw [hsc]
  cases hs : (scoresOfM b p o).insertionSort scoreLE with
  | nil => rw [pickBest, hs]
  | cons t ts => rw [pickBest, hs]

lemma minimaxM_spec_aux :
    ∀ (n : Nat) (b : Board) (p o : Player), (avail_moves b).length ≤ n →
      (minimaxM b p o).2 = b ∧ (minimaxM b p o).1 = minimax b p o := by
  intro n
  induction n with
  | zero =>
    intro b p o h
    have hav : avail_moves b = [] := List.length_eq_zero.mp (Nat.le_zero.mp h)
    rw [minimaxM_no_avail b p o hav, minimax_no_avail b p o hav]
    exact ⟨rfl, rfl⟩
  | succ n ih =>
    intro b p o h
    cases hcheck : check_player_win b p with
    | some r =>
      obtain ⟨i, s⟩ := r
      rw [minimaxM_check_some b p o i s hcheck, minimax_check_some b p o i s hcheck]
      exact ⟨rfl, rfl⟩
    | none =>
      by_cases hav : avail_moves b = []
      · rw [minimaxM_no_avail b p o hav, minimax_no_avail b p o hav]
        exact ⟨rfl, rfl⟩
      · rw [minimaxM_nonterminal b p o hcheck hav, minimax_nonterminal b p o hcheck hav]
        refine ⟨rfl, ?_⟩
        show pickBest (scoresOfM b p o) p = pickBest (scoresOf b p o) p
        have : scoresOfM b p o = scoresOf b p o := by
          unfold scoresOfM scoresOf
          apply List.map_congr_left
          intro i hi
          have hlt := avail_moves_setCell_length_lt b i p hi
          have hle : (avail_moves (setCell b i (some p))).length ≤ n := by omega
          rw [(ih (setCell b i (some p)) o p hle).2]
        rw [this]

/-- C7: `minimax` never mutates the board it receives: in the state-threading
mirror `minimaxM` (which returns the caller's board object's final value alongside
the result, and agrees with `minimax` on the result) the board comes back unchanged
from every call, because each recursive exploration only writes to its own copy. -/
theorem C7_minimax_no_mutation (b : Board) (p o : Player) :
    (minimaxM b p o).2 = b ∧ (minimaxM b p o).1 = minimax b p o :=
  minimaxM_spec_aux (avail_moves b).length b p o (le_refl _)

/-!
Concrete evaluation of the search from the empty board, one lemma per distinct
reachable position (children first, so each lemma only unfolds one step and
rewrites with the already-proved positions).
-/

set_option maxHeartbeats 1000000

theorem mmv_0007 : minimaxL 3 [some X, some O, some X, some O, some X, some O, none, none, none] X O = (some 8, 1) := rfl

theorem mmv_0008 : minimaxL 3 [some X, some O, some X, some O, some X, none, some O, none, none] X O = (some 8, 1) := rfl

theorem mmv_0009 : minimaxL 3 [some X, some O, some X, some O, some X, none, none, some O, none] X O = (some 8, 1) := rfl

theorem mmv_0010 : minimaxL 3 [some X, some O, some X, some O, some X, none, none, none, some O] X O = (some 6, 1) := rfl

theorem mmv_0006 : minimaxL 4 [some X, some O, some X, some O, some X, none, none, none, none] O X = (some 5, 1) := by
  rw [minimaxL_succ 3 [some X, some O, some X, some O, some X, none, none, none, none] O X [5, 6, 7, 8] rfl rfl (List.cons_ne_nil _ _)]
  show pickBest [(5, (minimaxL 3 [some X, some O, some X, some O, some X, some O, none, none, none] X O).2), (6, (minimaxL 3 [some X, some O, some X, some O, some X, none, some O, none, none] X O).2), (7, (minimaxL 3 [some X, some O, some X, some O, some X, none, none, some O, none] X O).2), (8, (minimaxL 3 [some X, some O, some X, some O, some X, none, none, none, some O] X O).2)] O = (some 5, 1)
  rw [mmv_0007, mmv_0008, mmv_0009, mmv_0010]
  rfl

theorem mmv_0012 : minimaxL 3 [some X, some O, some X, some O, some O, some X, none, none, none] X O = (some 8, 1) := rfl

theorem mmv_0013 : minimaxL 3 [some X, some O, some X, some O, none, some X, some O, none, none] X O = (some 8, 1) := rfl

theorem mmv_0014 : minimaxL 3 [some X, some O, some X, some O, none, some X, none, some O, none] X O = (some 8, 1) := rfl

theorem mmv_0018 : minimaxL 0 [some X, some O, some X, some O, some X, some X, some O, some X, some O] O X = (none, 0) := rfl

theorem mmv_0017 : minimaxL 1 [some X, some O, some X, some O, some X, some X, some O, none, some O] X O = (some 7, 0) := by
  rw [minimaxL_succ 0 [some X, some O, some X, some O, some X, some X, some O, none, some O] X O [7] rfl rfl (List.cons_ne_nil _ _)]
  show pickBest [(7, (minimaxL 0 [some X, some O, some X, some O, some X, some X, some O, some X, some O] O X).2)] X = (some 7, 0)
  rw [mmv_0018]
  rfl

theorem mmv_0019 : minimaxL 1 [some X, some O, some X, some O, some X, some X, none, some O, some O] X O = (some 6, 1) := rfl

theorem mmv_0016 : minimaxL 2 [some X, some O, some X, some O, some X, some X, none, none, some O] O X = (some 6, 0) := by
  rw [minimaxL_succ 1 [some X, some O, some X, some O, some X, some X, none, none, some O] O X [6, 7] rfl rfl (List.cons_ne_nil _ _)]
  show pickBest [(6, (minimaxL 1 [some X, some O, some X, some O, some X, some X, some O, none, some O] X O).2), (7, (minimaxL 1 [some X, some O, some X, some O, some X, some X, none, some O, some O] X O).2)] O = (some 6, 0)
  rw [mmv_0017, mmv_0019]
  rfl

theorem mmv_0022 : minimaxL 0 [some X, some O, some X, some O, some O, some X, some X, some X, some O] O X = (none, 0) := rfl

theorem mmv_0021 : minimaxL 1 [some X, some O, some X, some O, some O, some X, some X, none, some O] X O = (some 7, 0) := by
  rw [minimaxL_succ 0 [some X, some O, some X, some O, some O, some X, some X, none, some O] X O [7] rfl rfl (List.cons_ne_nil _ _)]
  show pickBest [(7, (minimaxL 0 [some X, some O, some X, some O, some O, some X, some X, some X, some O] O X).2)] X = (some 7, 0)
  rw [mmv_0022]
  rfl

theorem mmv_0023 : minimaxL 1 [some X, some O, some X, some O, none, some X, some X, some O, some O] X O = (some 4, 1) := rfl

theorem mmv_0020 : minimaxL 2 [some X, some O, some X, some O, none, some X, some X, none, some O] O X = (some 4, 0) := by
  rw [minimaxL_succ 1 [some X, some O, some X, some O, none, some X, some X, none, some O] O X [4, 7] rfl rfl (List.cons_ne_nil _ _)]
  show pickBest [(4, (minimaxL 1 [some X, some O, some X, some O, some O, some X, some X, none, some O] X O).2), (7, (minimaxL 1 [some X, some O, some X, some O, none, some X, some X, some O, some O] X O).2)] O = (some 4, 0)
  rw [mmv_0021, mmv_0023]
  rfl

theorem mmv_0025 : minimaxL 1 [some X, some O, some X, some O, some O, some X, none, some X, some O] X O = (some 6, 0) := by
  rw [minimaxL_succ 0 [some X, some O, some X, some O, some O, some X, none, some X, some O] X O [6] rfl rfl (List.cons_ne_nil _ _)]
  show pickBest [(6, (minimaxL 0 [some X, some O, some X, some O, some O, some X, some X, some X, some O] O X).2)] X = (some 6, 0)
  rw [mmv_0022]
  rfl

theorem mmv_0026 : minimaxL 1 [some X, some O, some X, some O, none, some X, some O, some X, some O] X O = (some 4, 0) := by
  rw [minimaxL_succ 0 [some X, some O, some X, some O, none, some X, some O, some X, some O] X O [4] rfl rfl (List.cons_ne_nil _ _)]
  show pickBest [(4, (minimaxL 0 [some X, some O, some X, some O, some X, some X, some O, some X, some O] O X).2)] X = (some 4, 0)
  rw [mmv_0018]
  rfl

theorem mmv_0024 : minimaxL 2 [some X, some O, some X, some O, none, some X, none, some X, some O] O X = (some 4, 0) := by
  rw [minimaxL_succ 1 [some X, some O, some X, some O, none, some X, none, some X, some O] O X [4, 6] rfl rfl (List.cons_ne_nil _ _)]
  show pickBest [(4, (minimaxL 1 [some X, some O, some X, some O, some O, some X, none, some X, some O] X O).2), (6, (minimaxL 1 [some X, some O, some X, some O, none, some X, some O, some X, some O] X O).2)] O = (some 4, 0)
  rw [mmv_0025, mmv_0026]
  rfl

theorem mmv_0015 : minimaxL 3 [some X, some O, some X, some O, none, some X, none, none, some O] X O = (some 7, 0) := by
  rw [minimaxL_succ 2 [some X, some O, some X, some O, none, some X, none, none, some O] X O [4, 6, 7] rfl rfl (List.cons_ne_nil _ _)]
  show pickBest [(4, (minimaxL 2 [some X, some O, some X, some O, some X, some X, none, none, some O] O X).2), (6, (minimaxL 2 [some X, some O, some X, some O, none, some X, some X, none, some O] O X).2), (7, (minimaxL 2 [some X, some O, some X, some O, none, some X, none, some X, some O] O X).2)] X = (some 7, 0)
  rw [mmv_0016, mmv_0020, mmv_0024]
  rfl

theorem mmv_0011 : minimaxL 4 [some X, some O, some X, some O, none, some X, none, none, none] O X = (some 8, 0) := by
  rw [minimaxL_succ 3 [some X, some O, some X, some O, none, some X, none, none, none] O X [4, 6, 7, 8] rfl rfl (List.cons_ne_nil _ _)]
  show pickBest [(4, (minimaxL 3 [some X, some O, some X, some O, some O, some X, none, none, none] X O).2), (6, (minimaxL 3 [some X, some O, some X, some O, none, some X, some O, none, none] X O).2), (7, (minimaxL 3 [some X, some O, some X, some O, none, some X, none, some O, none] X O).2), (8, (minimaxL 3 [some X, some O, some X, some O, none, some X, none, none, some O] X O).2)] O = (some 8, 0)
  rw [mmv_0012, mmv_0013, mmv_0014, mmv_0015]
  rfl

theorem mmv_0029 : minimaxL 2 [some X, some O, some X, some O, some O, some X, some X, none, none] O X = (some 7, -1) := rfl

theorem mmv_0030 : minimaxL 2 [some X, some O, some X, some O, some O, none, some X, some X, none] O X = (some 5, -1) := rfl

theorem mmv_0031 : minimaxL 2 [some X, some O, some X, some O, some O, none, some X, none, some X] O X = (some 7, -1) := rfl

theorem mmv_0028 : minimaxL 3 [some X, some O, some X, some O, some O, none, some X, none, none] X O = (some 8, -1) := by
  rw [minimaxL_succ 2 [some X, some O, some X, some O, some O, none, some X, none, none] X O [5, 7, 8] rfl rfl (List.cons_ne_nil _ _)]
  show pickBest [(5, (minimaxL 2 [some X, some O, some X, some O, some O, some X, some X, none, none] O X).2), (7, (minimaxL 2 [some X, some O, some X, some O, some O, none, some X, some X, none] O X).2), (8, (minimaxL 2 [some X, some O, some X, some O, some O, none, some X, none, some X] O X).2)] X = (some 8, -1)
  rw [mmv_0029, mmv_0030, mmv_0031]
  rfl

theorem mmv_0032 : minimaxL 3 [some X, some O, some X, some O, none, some O, some X, none, none] X O = (some 4, 1) := rfl

theorem mmv_0033 : minimaxL 3 [some X, some O, some X, some O, none, none, some X, some O, none] X O = (some 4, 1) := rfl

theorem mmv_0034 : minimaxL 3 [some X, some O, some X, some O, none, none, some X, none, some O] X O = (some 4, 1) := rfl

theorem mmv_0027 : minimaxL 4 [some X, some O, some X, some O, none, none, some X, none, none] O X = (some 4, -1) := by
  rw [minimaxL_succ 3 [some X, some O, some X, some O, none, none, some X, none, none] O X [4, 5, 7, 8] rfl rfl (List.cons_ne_nil _ _)]
  show pickBest [(4, (minimaxL 3 [some X, some O, some X, some O, some O, none, some X, none, none] X O).2), (5, (minimaxL 3 [some X, some O, some X, some O, none, some O, some X, none, none] X O).2), (7, (minimaxL 3 [some X, some O, some X, some O, none, none, some X, some O, none] X O).2), (8, (minimaxL 3 [some X, some O, some X, some O, none, none, some X, none, some O] X O).2)] O = (some 4, -1)
  rw [mmv_0028, mmv_0032, mmv_0033, mmv_0034]
  rfl

theorem mmv_0038 : minimaxL 1 [some X, some O, some X, some O, some O, some X, some O, some X, none] X O = (some 8, 1) := rfl

theorem mmv_0037 : minimaxL 2 [some X, some O, some X, some O, some O, some X, none, some X, none] O X = (some 8, 0) := by
  rw [minimaxL_succ 1 [some X, some O, some X, some O, some O, some X, none, some X, none] O X [6, 8] rfl rfl (List.cons_ne_nil _ _)]
  show pickBest [(6, (minimaxL 1 [some X, some O, some X, some O, some O, some X, some O, some X, none] X O).2), (8, (minimaxL 1 [some X, some O, some X, some O, some O, some X, none, some X, some O] X O).2)] O = (some 8, 0)
  rw [mmv_0038, mmv_0025]
  rfl

theorem mmv_0039 : minimaxL 2 [some X, some O, some X, some O, some O, none, none, some X, some X] O X = (some 5, -1) := rfl

theorem mmv_0036 : minimaxL 3 [some X, some O, some X, some O, some O, none, none, some X, none] X O = (some 5, 0) := by
  rw [minimaxL_succ 2 [some X, some O, some X, some O, some O, none, none, some X, none] X O [5, 6, 8] rfl rfl (List.cons_ne_nil _ _)]
  show pickBest [(5, (minimaxL 2 [some X, some O, some X, some O, some O, some X, none, some X, none] O X).2), (6, (minimaxL 2 [some X, some O, some X, some O, some O, none, some X, some X, none] O X).2), (8, (minimaxL 2 [some X, some O, some X, some O, some O, none, none, some X, some X] O X).2)] X = (some 5, 0)
  rw [mmv_0037, mmv_0030, mmv_0039]
  rfl

theorem mmv_0042 : minimaxL 1 [some X, some O, some X, some O, some X, some O, some O, some X, none] X O = (some 8, 1) := rfl

theorem mmv_0043 : minimaxL 1 [some X, some O, some X, some O, some X, some O, none, some X, some O] X O = (some 6, 1) := rfl

theorem mmv_0041 : minimaxL 2 [some X, some O, some X, some O, some X, some O, none, some X, none] O X = (some 6, 1) := by
  rw [minimaxL_succ 1 [some X, some O, some X, some O, some X, some O, none, some X, none] O X [6, 8] rfl rfl (List.cons_ne_nil _ _)]
  show pickBest [(6, (minimaxL 1 [some X, some O, some X, some O, some X, some O, some O, some X, none] X O).2), (8, (minimaxL 1 [some X, some O, some X, some O, some X, some O, none, some X, some O] X O).2)] O = (some 6, 1)
  rw [mmv_0042, mmv_0043]
  rfl

theorem mmv_0044 : minimaxL 2 [some X, some O, some X, some O, none, some O, some X, some X, none] O X = (some 4, -1) := rfl

theorem mmv_0045 : minimaxL 2 [some X, some O, some X, some O, none, some O, none, some X, some X] O X = (some 4, -1) := rfl

theorem mmv_0040 : minimaxL 3 [some X, some O, some X, some O, none, some O, none, some X, none] X O = (some 4, 1) := by
  rw [minimaxL_succ 2 [some X, some O, some X, some O, none, some O, none, some X, none] X O [4, 6, 8] rfl rfl (List.cons_ne_nil _ _)]
  show pickBest [(4, (minimaxL 2 [some X, some O, some X, some O, some X, some O, none, some X, none] O X).2), (6, (minimaxL 2 [some X, some O, some X, some O, none, some O, some X, some X, none] O X).2), (8, (minimaxL 2 [some X, some O, some X, some O, none, some O, none, some X, some X] O X).2)] X = (some 4, 1)
  rw [mmv_0041, mmv_0044, mmv_0045]
  rfl

theorem mmv_0048 : minimaxL 1 [some X, some O, some X, some O, some X, none, some O, some X, some O] X O = (some 5, 0) := by
  rw [minimaxL_succ 0 [some X, some O, some X, some O, some X, none, some O, some X, some O] X O [5] rfl rfl (List.cons_ne_nil _ _)]
  show pickBest [(5, (minimaxL 0 [some X, some O, some X, some O, some X, some X, some O, some X, some O] O X).2)] X = (some 5, 0)
  rw [mmv_0018]
  rfl

theorem mmv_0047 : minimaxL 2 [some X, some O, some X, some O, some X, none, some O, some X, none] O X = (some 8, 0) := by
  rw [minimaxL_succ 1 [some X, some O, some X, some O, some X, none, some O, some X, none] O X [5, 8] rfl rfl (List.cons_ne_nil _ _)]
  show pickBest [(5, (minimaxL 1 [some X, some O, some X, some O, some X, some O, some O, some X, none] X O).2), (8, (minimaxL 1 [some X, some O, some X, some O, some X, none, some O, some X, some O] X O).2)] O = (some 8, 0)
  rw [mmv_0042, mmv_0048]
  rfl

theorem mmv_0049 : minimaxL 2 [some X, some O, some X, some O, none, some X, some O, some X, none] O X = (some 8, 0) := by
  rw [minimaxL_succ 1 [some X, some O, some X, some O, none, some X, some O, some X, none] O X [4, 8] rfl rfl (List.cons_ne_nil _ _)]
  show pickBest [(4, (minimaxL 1 [some X, some O, some X, some O, some O, some X, some O, some X, none] X O).2), (8, (minimaxL 1 [some X, some O, some X, some O, none, some X, some O, some X, some O] X O).2)] O = (some 8, 0)
  rw [mmv_0038, mmv_0026]
  rfl

theorem mmv_0051 : minimaxL 1 [some X, some O, some X, some O, some O, none, some O, some X, some X] X O = (some 5, 1) := rfl

theorem mmv_0052 : minimaxL 1 [some X, some O, some X, some O, none, some O, some O, some X, some X] X O = (some 4, 1) := rfl

theorem mmv_0050 : minimaxL 2 [some X, some O, some X, some O, none, none, some O, some X, some X] O X = (some 4, 1) := by
  rw [minimaxL_succ 1 [some X, some O, some X, some O, none, none, some O, some X, some X] O X [4, 5] rfl rfl (List.cons_ne_nil _ _)]
  show pickBest [(4, (minimaxL 1 [some X, some O, some X, some O, some O, none, some O, some X, some X] X O).2), (5, (minimaxL 1 [some X, some O, some X, some O, none, some O, some O, some X, some X] X O).2)] O = (some 4, 1)
  rw [mmv_0051, mmv_0052]
  rfl

theorem mmv_0046 : minimaxL 3 [some X, some O, some X, some O, none, none, some O, some X, none] X O = (some 8, 1) := by
  rw [minimaxL_succ 2 [some X, some O, some X, some O, none, none, some O, some X, none] X O [4, 5, 8] rfl rfl (List.cons_ne_nil _ _)]
  show pickBest [(4, (minimaxL 2 [some X, some O, some X, some O, some X, none, some O, some X, none] O X).2), (5, (minimaxL 2 [some X, some O, some X, some O, none, some X, some O, some X, none] O X).2), (8, (minimaxL 2 [some X, some O, some X, some O, none, none, some O, some X, some X] O X).2)] X = (some 8, 1)
  rw [mmv_0047, mmv_0049, mmv_0050]
  rfl

theorem mmv_0054 : minimaxL 2 [some X, some O, some X, some O, some X, none, none, some X, some O] O X = (some 6, 0) := by
  rw [minimaxL_succ 1 [some X, some O, some X, some O, some X, none, none, some X, some O] O X [5, 6] rfl rfl (List.cons_ne_nil _ _)]
  show pickBest [(5, (minimaxL 1 [some X, some O, some X, some O, some X, some O, none, some X, some O] X O).2), (6, (minimaxL 1 [some X, some O, some X, some O, some X, none, some O, some X, some O] X O).2)] O = (some 6, 0)
  rw [mmv_0043, mmv_0048]
  rfl

theorem mmv_0056 : minimaxL 1 [some X, some O, some X, some O, some O, none, some X, some X, some O] X O = (some 5, 0) := by
  rw [minimaxL_succ 0 [some X, some O, some X, some O, some O, none, some X, some X, some O] X O [5] rfl rfl (List.cons_ne_nil _ _)]
  show pickBest [(5, (minimaxL 0 [some X, some O, some X, some O, some O, some X, some X, some X, some O] O X).2)] X = (some 5, 0)
  rw [mmv_0022]
  rfl

theorem mmv_0057 : minimaxL 1 [some X, some O, some X, some O, none, some O, some X, some X, some O] X O = (some 4, 1) := rfl

theorem mmv_0055 : minimaxL 2 [some X, some O, some X, some O, none, none, some X, some X, some O] O X = (some 4, 0) := by
  rw [minimaxL_succ 1 [some X, some O, some X, some O, none, none, some X, some X, some O] O X [4, 5] rfl rfl (List.cons_ne_nil _ _)]
  show pickBest [(4, (minimaxL 1 [some X, some O, some X, some O, some O, none, some X, some X, some O] X O).2), (5, (minimaxL 1 [some X, some O, some X, some O, none, some O, some X, some X, some O] X O).2)] O = (some 4, 0)
  rw [mmv_0056, mmv_0057]
  rfl

theorem mmv_0053 : minimaxL 3 [some X, some O, some X, some O, none, none, none, some X, some O] X O = (some 6, 0) := by
  rw [minimaxL_succ 2 [some X, some O, some X, some O, none, none, none, some X, some O] X O [4, 5, 6] rfl rfl (List.cons_ne_nil _ _)]
  show pickBest [(4, (minimaxL 2 [some X, some O, some X, some O, some X, none, none, some X, some O] O X).2), (5, (minimaxL 2 [some X, some O, some X, some O, none, some X, none, some X, some O] O X).2), (6, (minimaxL 2 [some X, some O, some X, some O, none, none, some X, some X, some O] O X).2)] X = (some 6, 0)
  rw [mmv_0054, mmv_0024, mmv_0055]
  rfl

theorem mmv_0035 : minimaxL 4 [some X, some O, some X, some O, none, none, none, some X, none] O X = (some 4, 0) := by
  rw [minimaxL_succ 3 [some X, some O, some X, some O, none, none, none, some X, none] O X [4, 5, 6, 8] rfl rfl (List.cons_ne_nil _ _)]
  show pickBest [(4, (minimaxL 3 [some X, some O, some X, some O, some O, none, none, some X, none] X O).2), (5, (minimaxL 3 [some X, some O, some X, some O, none, some O, none, some X, none] X O).2), (6, (minimaxL 3 [some X, some O, some X, some O, none, none, some O, some X, none] X O).2), (8, (minimaxL 3 [some X, some O, some X, some O, none, none, none, some X, some O] X O).2)] O = (some 4, 0)
  rw [mmv_0036, mmv_0040, mmv_0046, mmv_0053]
  rfl

theorem mmv_0059 : minimaxL 3 [some X, some O, some X, some O, some O, none, none, none, some X] X O = (some 5, 1) := rfl

theorem mmv_0060 : minimaxL 3 [some X, some O, some X, some O, none, some O, none, none, some X] X O = (some 4, 1) := rfl

theorem mmv_0061 : minimaxL 3 [some X, some O, some X, some O, none, none, some O, none, some X] X O = (some 4, 1) := rfl

theorem mmv_0062 : minimaxL 3 [some X, some O, some X, some O, none, none, none, some O, some X] X O = (some 4, 1) := rfl

theorem mmv_0058 : minimaxL 4 [some X, some O, some X, some O, none, none, none, none, some X] O X = (some 4, 1) := by
  rw [minimaxL_succ 3 [some X, some O, some X, some O, none, none, none, none, some X] O X [4, 5, 6, 7] rfl rfl (List.cons_ne_nil _ _)]
  show pickBest [(4, (minimaxL 3 [some X, some O, some X, some O, some O, none, none, none, some X] X O).2), (5, (minimaxL 3 [some X, some O, some X, some O, none, some O, none, none, some X] X O).2), (6, (minimaxL 3 [some X, some O, some X, some O, none, none, some O, none, some X] X O).2), (7, (minimaxL 3 [some X, some O, some X, some O, none, none, none, some O, some X] X O).2)] O = (some 4, 1)
  rw [mmv_0059, mmv_0060, mmv_0061, mmv_0062]
  rfl

theorem mmv_0005 : minimaxL 5 [some X, some O, some X, some O, none, none, none, none, none] X O = (some 8, 1) := by
  rw [minimaxL_succ 4 [some X, some O, some X, some O, none, none, none, none, none] X O [4, 5, 6, 7, 8] rfl rfl (List.cons_ne_nil _ _)]
  show pickBest [(4, (minimaxL 4 [some X, some O, some X, some O, some X, none, none, none, none] O X).2), (5, (minimaxL 4 [some X, some O, some X, some O, none, some X, none, none, none] O X).2), (6, (minimaxL 4 [some X, some O, some X, some O, none, none, some X, none, none] O X).2), (7, (minimaxL 4 [some X, some O, some X, some O, none, none, none, some X, none] O X).2), (8, (minimaxL 4 [some X, some O, some X, some O, none, none, none, none, some X] O X).2)] X = (some 8, 1)
  rw [mmv_0006, mmv_0011, mmv_0027, mmv_0035, mmv_0058]
  rfl

theorem mmv_0064 : minimaxL 4 [some X, some O, some X, some X, some O, none, none, none, none] O X = (some 7, -1) := rfl

theorem mmv_0065 : minimaxL 4 [some X, some O, some X, none, some O, some X, none, none, none] O X = (some 7, -1) := rfl

theorem mmv_0066 : minimaxL 4 [some X, some O, some X, none, some O, none, some X, none, none] O X = (some 7, -1) := rfl

theorem mmv_0071 : minimaxL 0 [some X, some O, some X, some X, some O, some O, some O, some X, some X] O X = (none, 0) := rfl

theorem mmv_0070 : minimaxL 1 [some X, some O, some X, some X, some O, some O, some O, some X, none] X O = (some 8, 0) := by
  rw [minimaxL_succ 0 [some X, some O, some X, some X, some O, some O, some O, some X, none] X O [8] rfl rfl (List.cons_ne_nil _ _)]
  show pickBest [(8, (minimaxL 0 [some X, some O, some X, some X, some O, some O, some O, some X, some X] O X).2)] X = (some 8, 0)
  rw [mmv_0071]
  rfl

theorem mmv_0072 : minimaxL 1 [some X, some O, some X, some X, some O, some O, none, some X, some O] X O = (some 6, 1) := rfl

theorem mmv_0069 : minimaxL 2 [some X, some O, some X, some X, some O, some O, none, some X, none] O X = (some 6, 0) := by
  rw [minimaxL_succ 1 [some X, some O, some X, some X, some O, some O, none, some X, none] O X [6, 8] rfl rfl (List.cons_ne_nil _ _)]
  show pickBest [(6, (minimaxL 1 [some X, some O, some X, some X, some O, some O, some O, some X, none] X O).2), (8, (minimaxL 1 [some X, some O, some X, some X, some O, some O, none, some X, some O] X O).2)] O = (some 6, 0)
  rw [mmv_0070, mmv_0072]
  rfl

theorem mmv_0073 : minimaxL 2 [some X, some O, some X, none, some O, some O, some X, some X, none] O X = (some 3, -1) := rfl

theorem mmv_0074 : minimaxL 2 [some X, some O, some X, none, some O, some O, none, some X, some X] O X = (some 3, -1) := rfl

theorem mmv_0068 : minimaxL 3 [some X, some O, some X, none, some O, some O, none, some X, none] X O = (some 3, 0) := by
  rw [minimaxL_succ 2 [some X, some O, some X, none, some O, some O, none, some X, none] X O [3, 6, 8] rfl rfl (List.cons_ne_nil _ _)]
  show pickBest [(3, (minimaxL 2 [some X, some O, some X, some X, some O, some O, none, some X, none] O X).2), (6, (minimaxL 2 [some X, some O, some X, none, some O, some O, some X, some X, none] O X).2), (8, (minimaxL 2 [some X, some O, some X, none, some O, some O, none, some X, some X] O X).2)] X = (some 3, 0)
  rw [mmv_0069, mmv_0073, mmv_0074]
  rfl

theorem mmv_0078 : minimaxL 0 [some X, some O, some X, some X, some O, some X, some O, some X, some O] O X = (none, 0) := rfl

theorem mmv_0077 : minimaxL 1 [some X, some O, some X, some X, some O, none, some O, some X, some O] X O = (some 5, 0) := by
  rw [minimaxL_succ 0 [some X, some O, some X, some X, some O, none, some O, some X, some O] X O [5] rfl rfl (List.cons_ne_nil _ _)]
  show pickBest [(5, (minimaxL 0 [some X, some O, some X, some X, some O, some X, some O, some X, some O] O X).2)] X = (some 5, 0)
  rw [mmv_0078]
  rfl

theorem mmv_0076 : minimaxL 2 [some X, some O, some X, some X, some O, none, some O, some X, none] O X = (some 5, 0) := by
  rw [minimaxL_succ 1 [some X, some O, some X, some X, some O, none, some O, some X, none] O X [5, 8] rfl rfl (List.cons_ne_nil _ _)]
  show pickBest [(5, (minimaxL 1 [some X, some O, some X, some X, some O, some O, some O, some X, none] X O).2), (8, (minimaxL 1 [some X, some O, some X, some X, some O, none, some O, some X, some O] X O).2)] O = (some 5, 0)
  rw [mmv_0070, mmv_0077]
  rfl

theorem mmv_0080 : minimaxL 1 [some X, some O, some X, none, some O, some X, some O, some X, some O] X O = (some 3, 0) := by
  rw [minimaxL_succ 0 [some X, some O, some X, none, some O, some X, some O, some X, some O] X O [3] rfl rfl (List.cons_ne_nil _ _)]
  show pickBest [(3, (minimaxL 0 [some X, some O, some X, some X, some O, some X, some O, some X, some O] O X).2)] X = (some 3, 0)
  rw [mmv_0078]
  rfl

theorem mmv_0079 : minimaxL 2 [some X, some O, some X, none, some O, some X, some O, some X, none] O X = (some 8, 0) := by
  rw [minimaxL_succ 1 [some X, some O, some X, none, some O, some X, some O, some X, none] O X [3, 8] rfl rfl (List.cons_ne_nil _ _)]
  show pickBest [(3, (minimaxL 1 [some X, some O, some X, some O, some O, some X, some O, some X, none] X O).2), (8, (minimaxL 1 [some X, some O, some X, none, some O, some X, some O, some X, some O] X O).2)] O = (some 8, 0)
  rw [mmv_0038, mmv_0080]
  rfl

theorem mmv_0082 : minimaxL 1 [some X, some O, some X, none, some O, some O, some O, some X, some X] X O = (some 3, 0) := by
  rw [minimaxL_succ 0 [some X, some O, some X, none, some O, some O, some O, some X, some X] X O [3] rfl rfl (List.cons_ne_nil _ _)]
  show pickBest [(3, (minimaxL 0 [some X, some O, some X, some X, some O, some O, some O, some X, some X] O X).2)] X = (some 3, 0)
  rw [mmv_0071]
  rfl

theorem mmv_0081 : minimaxL 2 [some X, some O, some X, none, some O, none, some O, some X, some X] O X = (some 5, 0) := by
  rw [minimaxL_succ 1 [some X, some O, some X, none, some O, none, some O, some X, some X] O X [3, 5] rfl rfl (List.cons_ne_nil _ _)]
  show pickBest [(3, (minimaxL 1 [some X, some O, some X, some O, some O, none, some O, some X, some X] X O).2), (5, (minimaxL 1 [some X, some O, some X, none, some O, some O, some O, some X, some X] X O).2)] O = (some 5, 0)
  rw [mmv_0051, mmv_0082]
  rfl

theorem mmv_0075 : minimaxL 3 [some X, some O, some X, none, some O, none, some O, some X, none] X O = (some 8, 0) := by
  rw [minimaxL_succ 2 [some X, some O, some X, none, some O, none, some O, some X, none] X O [3, 5, 8] rfl rfl (List.cons_ne_nil _ _)]
  show pickBest [(3, (minimaxL 2 [some X, some O, some X, some X, some O, none, some O, some X, none] O X).2), (5, (minimaxL 2 [some X, some O, some X, none, some O, some X, some O, some X, none] O X).2), (8, (minimaxL 2 [some X, some O, some X, none, some O, none, some O, some X, some X] O X).2)] X = (some 8, 0)
  rw [mmv_0076, mmv_0079, mmv_0081]
  rfl

theorem mmv_0084 : minimaxL 2 [some X, some O, some X, some X, some O, none, none, some X, some O] O X = (some 6, 0) := by
  rw [minimaxL_succ 1 [some X, some O, some X, some X, some O, none, none, some X, some O] O X [5, 6] rfl rfl (List.cons_ne_nil _ _)]
  show pickBest [(5, (minimaxL 1 [some X, some O, some X, some X, some O, some O, none, some X, some O] X O).2), (6, (minimaxL 1 [some X, some O, some X, some X, some O, none, some O, some X, some O] X O).2)] O = (some 6, 0)
  rw [mmv_0072, mmv_0077]
  rfl

theorem mmv_0085 : minimaxL 2 [some X, some O, some X, none, some O, some X, none, some X, some O] O X = (some 3, 0) := by
  rw [minimaxL_succ 1 [some X, some O, some X, none, some O, some X, none, some X, some O] O X [3, 6] rfl rfl (List.cons_ne_nil _ _)]
  show pickBest [(3, (minimaxL 1 [some X, some O, some X, some O, some O, some X, none, some X, some O] X O).2), (6, (minimaxL 1 [some X, some O, some X, none, some O, some X, some O, some X, some O] X O).2)] O = (some 3, 0)
  rw [mmv_0025, mmv_0080]
  rfl

theorem mmv_0087 : minimaxL 1 [some X, some O, some X, none, some O, some O, some X, some X, some O] X O = (some 3, 1) := rfl

theorem mmv_0086 : minimaxL 2 [some X, some O, some X, none, some O, none, some X, some X, some O] O X = (some 3, 0) := by
  rw [minimaxL_succ 1 [some X, some O, some X, none, some O, none, some X, some X, some O] O X [3, 5] rfl rfl (List.cons_ne_nil _ _)]
  show pickBest [(3, (minimaxL 1 [some X, some O, some X, some O, some O, none, some X, some X, some O] X O).2), (5, (minimaxL 1 [some X, some O, some X, none, some O, some O, some X, some X, some O] X O).2)] O = (some 3, 0)
  rw [mmv_0056, mmv_0087]
  rfl

theorem mmv_0083 : minimaxL 3 [some X, some O, some X, none, some O, none, none, some X, some O] X O = (some 6, 0) := by
  rw [minimaxL_succ 2 [some X, some O, some X, none, some O, none, none, some X, some O] X O [3, 5, 6] rfl rfl (List.cons_ne_nil _ _)]
  show pickBest [(3, (minimaxL 2 [some X, some O, some X, some X, some O, none, none, some X, some O] O X).2), (5, (minimaxL 2 [some X, some O, some X, none, some O, some X, none, some X, some O] O X).2), (6, (minimaxL 2 [some X, some O, some X, none, some O, none, some X, some X, some O] O X).2)] X = (some 6, 0)
  rw [mmv_0084, mmv_0085, mmv_0086]
  rfl

theorem mmv_0067 : minimaxL 4 [some X, some O, some X, none, some O, none, none, some X, none] O X = (some 3, 0) := by
  rw [minimaxL_succ 3 [some X, some O, some X, none, some O, none, none, some X, none] O X [3, 5, 6, 8] rfl rfl (List.cons_ne_nil _ _)]
  show pickBest [(3, (minimaxL 3 [some X, some O, some X, some O, some O, none, none, some X, none] X O).2), (5, (minimaxL 3 [some X, some O, some X, none, some O, some O, none, some X, none] X O).2), (6, (minimaxL 3 [some X, some O, some X, none, some O, none, some O, some X, none] X O).2), (8, (minimaxL 3 [some X, some O, some X, none, some O, none, none, some X, some O] X O).2)] O = (some 3, 0)
  rw [mmv_0036, mmv_0068, mmv_0075, mmv_0083]
  rfl

theorem mmv_0088 : minimaxL 4 [some X, some O, some X, none, some O, none, none, none, some X] O X = (some 7, -1) := rfl

theorem mmv_0063 : minimaxL 5 [some X, some O, some X, none, some O, none, none, none, none] X O = (some 7, 0) := by
  rw [minimaxL_succ 4 [some X, some O, some X, none, some O, none, none, none, none] X O [3, 5, 6, 7, 8] rfl rfl (List.cons_ne_nil _ _)]
  show pickBest [(3, (minimaxL 4 [some X, some O, some X, some X, some O, none, none, none, none] O X).2), (5, (minimaxL 4 [some X, some O, some X, none, some O, some X, none, none, none] O X).2), (6, (minimaxL 4 [some X, some O, some X, none, some O, none, some X, none, none] O X).2), (7, (minimaxL 4 [some X, some O, some X, none, some O, none, none, some X, none] O X).2), (8, (minimaxL 4 [some X, some O, some X, none, some O, none, none, none, some X] O X).2)] X = (some 7, 0)
  rw [mmv_0064, mmv_0065, mmv_0066, mmv_0067, mmv_0088]
  rfl

theorem mmv_0091 : minimaxL 3 [some X, some O, some X, some X, some O, some O, none, none, none] X O = (some 6, 1) := rfl

theorem mmv_0094 : minimaxL 1 [some X, some O, some X, some X, some X, some O, some O, some O, none] X O = (some 8, 1) := rfl

theorem mmv_0096 : minimaxL 0 [some X, some O, some X, some X, some X, some O, some O, some X, some O] O X = (none, 0) := rfl

theorem mmv_0095 : minimaxL 1 [some X, some O, some X, some X, some X, some O, some O, none, some O] X O = (some 7, 0) := by
  rw [minimaxL_succ 0 [some X, some O, some X, some X, some X, some O, some O, none, some O] X O [7] rfl rfl (List.cons_ne_nil _ _)]
  show pickBest [(7, (minimaxL 0 [some X, some O, some X, some X, some X, some O, some O, some X, some O] O X).2)] X = (some 7, 0)
  rw [mmv_0096]
  rfl

theorem mmv_0093 : minimaxL 2 [some X, some O, some X, some X, some X, some O, some O, none, none] O X = (some 8, 0) := by
  rw [minimaxL_succ 1 [some X, some O, some X, some X, some X, some O, some O, none, none] O X [7, 8] rfl rfl (List.cons_ne_nil _ _)]
  show pickBest [(7, (minimaxL 1 [some X, some O, some X, some X, some X, some O, some O, some O, none] X O).2), (8, (minimaxL 1 [some X, some O, some X, some X, some X, some O, some O, none, some O] X O).2)] O = (some 8, 0)
  rw [mmv_0094, mmv_0095]
  rfl

theorem mmv_0098 : minimaxL 1 [some X, some O, some X, some X, none, some O, some O, some X, some O] X O = (some 4, 0) := by
  rw [minimaxL_succ 0 [some X, some O, some X, some X, none, some O, some O, some X, some O] X O [4] rfl rfl (List.cons_ne_nil _ _)]
  show pickBest [(4, (minimaxL 0 [some X, some O, some X, some X, some X, some O, some O, some X, some O] O X).2)] X = (some 4, 0)
  rw [mmv_0096]
  rfl

theorem mmv_0097 : minimaxL 2 [some X, some O, some X, some X, none, some O, some O, some X, none] O X = (some 4, 0) := by
  rw [minimaxL_succ 1 [some X, some O, some X, some X, none, some O, some O, some X, none] O X [4, 8] rfl rfl (List.cons_ne_nil _ _)]
  show pickBest [(4, (minimaxL 1 [some X, some O, some X, some X, some O, some O, some O, some X, none] X O).2), (8, (minimaxL 1 [some X, some O, some X, some X, none, some O, some O, some X, some O] X O).2)] O = (some 4, 0)
  rw [mmv_0070, mmv_0098]
  rfl

theorem mmv_0100 : minimaxL 1 [some X, some O, some X, some X, some O, some O, some O, none, some X] X O = (some 7, 0) := by
  rw [minimaxL_succ 0 [some X, some O, some X, some X, some O, some O, some O, none, some X] X O [7] rfl rfl (List.cons_ne_nil _ _)]
  show pickBest [(7, (minimaxL 0 [some X, some O, some X, some X, some O, some O, some O, some X, some X] O X).2)] X = (some 7, 0)
  rw [mmv_0071]
  rfl

theorem mmv_0101 : minimaxL 1 [some X, some O, some X, some X, none, some O, some O, some O, some X] X O = (some 4, 1) := rfl

theorem mmv_0099 : minimaxL 2 [some X, some O, some X, some X, none, some O, some O, none, some X] O X = (some 4, 0) := by
  rw [minimaxL_succ 1 [some X, some O, some X, some X, none, some O, some O, none, some X] O X [4, 7] rfl rfl (List.cons_ne_nil _ _)]
  show pickBest [(4, (minimaxL 1 [some X, some O, some X, some X, some O, some O, some O, none, some X] X O).2), (7, (minimaxL 1 [some X, some O, some X, some X, none, some O, some O, some O, some X] X O).2)] O = (some 4, 0)
  rw [mmv_0100, mmv_0101]
  rfl

theorem mmv_0092 : minimaxL 3 [some X, some O, some X, some X, none, some O, some O, none, none] X O = (some 8, 0) := by
  rw [minimaxL_succ 2 [some X, some O, some X, some X, none, some O, some O, none, none] X O [4, 7, 8] rfl rfl (List.cons_ne_nil _ _)]
  show pickBest [(4, (minimaxL 2 [some X, some O, some X, some X, some X, some O, some O, none, none] O X).2), (7, (minimaxL 2 [some X, some O, some X, some X, none, some O, some O, some X, none] O X).2), (8, (minimaxL 2 [some X, some O, some X, some X, none, some O, some O, none, some X] O X).2)] X = (some 8, 0)
  rw [mmv_0093, mmv_0097, mmv_0099]
  rfl

theorem mmv_0102 : minimaxL 3 [some X, some O, some X, some X, none, some O, none, some O, none] X O = (some 6, 1) := rfl

theorem mmv_0103 : minimaxL 3 [some X, some O, some X, some X, none, some O, none, none, some O] X O = (some 6, 1) := rfl

theorem mmv_0090 : minimaxL 4 [some X, some O, some X, some X, none, some O, none, none, none] O X = (some 6, 0) := by
  rw [minimaxL_succ 3 [some X, some O, some X, some X, none, some O, none, none, none] O X [4, 6, 7, 8] rfl rfl (List.cons_ne_nil _ _)]
  show pickBest [(4, (minimaxL 3 [some X, some O, some X, some X, some O, some O, none, none, none] X O).2), (6, (minimaxL 3 [some X, some O, some X, some X, none, some O, some O, none, none] X O).2), (7, (minimaxL 3 [some X, some O, some X, some X, none, some O, none, some O, none] X O).2), (8, (minimaxL 3 [some X, some O, some X, some X, none, some O, none, none, some O] X O).2)] O = (some 6, 0)
  rw [mmv_0091, mmv_0092, mmv_0102, mmv_0103]
  rfl

theorem mmv_0105 : minimaxL 3 [some X, some O, some X, none, some X, some O, some O, none, none] X O = (some 8, 1) := rfl

theorem mmv_0106 : minimaxL 3 [some X, some O, some X, none, some X, some O, none, some O, none] X O = (some 8, 1) := rfl

theorem mmv_0107 : minimaxL 3 [some X, some O, some X, none, some X, some O, none, none, some O] X O = (some 6, 1) := rfl

theorem mmv_0104 : minimaxL 4 [some X, some O, some X, none, some X, some O, none, none, none] O X = (some 3, 1) := by
  rw [minimaxL_succ 3 [some X, some O, some X, none, some X, some O, none, none, none] O X [3, 6, 7, 8] rfl rfl (List.cons_ne_nil _ _)]
  show pickBest [(3, (minimaxL 3 [some X, some O, some X, some O, some X, some O, none, none, none] X O).2), (6, (minimaxL 3 [some X, some O, some X, none, some X, some O, some O, none, none] X O).2), (7, (minimaxL 3 [some X, some O, some X, none, some X, some O, none, some O, none] X O).2), (8, (minimaxL 3 [some X, some O, some X, none, some X, some O, none, none, some O] X O).2)] O = (some 3, 1)
  rw [mmv_0007, mmv_0105, mmv_0106, mmv_0107]
  rfl

theorem mmv_0109 : minimaxL 3 [some X, some O, some X, none, some O, some O, some X, none, none] X O = (some 3, 1) := rfl

theorem mmv_0110 : minimaxL 3 [some X, some O, some X, none, none, some O, some X, some O, none] X O = (some 3, 1) := rfl

theorem mmv_0111 : minimaxL 3 [some X, some O, some X, none, none, some O, some X, none, some O] X O = (some 3, 1) := rfl

theorem mmv_0108 : minimaxL 4 [some X, some O, some X, none, none, some O, some X, none, none] O X = (some 3, 1) := by
  rw [minimaxL_succ 3 [some X, some O, some X, none, none, some O, some X, none, none] O X [3, 4, 7, 8] rfl rfl (List.cons_ne_nil _ _)]
  show pickBest [(3, (minimaxL 3 [some X, some O, some X, some O, none, some O, some X, none, none] X O).2), (4, (minimaxL 3 [some X, some O, some X, none, some O, some O, some X, none, none] X O).2), (7, (minimaxL 3 [some X, some O, some X, none, none, some O, some X, some O, none] X O).2), (8, (minimaxL 3 [some X, some O, some X, none, none, some O, some X, none, some O] X O).2)] O = (some 3, 1)
  rw [mmv_0032, mmv_0109, mmv_0110, mmv_0111]
  rfl

theorem mmv_0115 : minimaxL 1 [some X, some O, some X, none, some X, some O, some O, some X, some O] X O = (some 3, 0) := by
  rw [minimaxL_succ 0 [some X, some O, some X, none, some X, some O, some O, some X, some O] X O [3] rfl rfl (List.cons_ne_nil _ _)]
  show pickBest [(3, (minimaxL 0 [some X, some O, some X, some X, some X, some O, some O, some X, some O] O X).2)] X = (some 3, 0)
  rw [mmv_0096]
  rfl

theorem mmv_0114 : minimaxL 2 [some X, some O, some X, none, some X, some O, some O, some X, none] O X = (some 8, 0) := by
  rw [minimaxL_succ 1 [some X, some O, some X, none, some X, some O, some O, some X, none] O X [3, 8] rfl rfl (List.cons_ne_nil _ _)]
  show pickBest [(3, (minimaxL 1 [some X, some O, some X, some O, some X, some O, some O, some X, none] X O).2), (8, (minimaxL 1 [some X, some O, some X, none, some X, some O, some O, some X, some O] X O).2)] O = (some 8, 0)
  rw [mmv_0042, mmv_0115]
  rfl

theorem mmv_0116 : minimaxL 2 [some X, some O, some X, none, none, some O, some O, some X, some X] O X = (some 4, 0) := by
  rw [minimaxL_succ 1 [some X, some O, some X, none, none, some O, some O, some X, some X] O X [3, 4] rfl rfl (List.cons_ne_nil _ _)]
  show pickBest [(3, (minimaxL 1 [some X, some O, some X, some O, none, some O, some O, some X, some X] X O).2), (4, (minimaxL 1 [some X, some O, some X, none, some O, some O, some O, some X, some X] X O).2)] O = (some 4, 0)
  rw [mmv_0052, mmv_0082]
  rfl

theorem mmv_0113 : minimaxL 3 [some X, some O, some X, none, none, some O, some O, some X, none] X O = (some 8, 0) := by
  rw [minimaxL_succ 2 [some X, some O, some X, none, none, some O, some O, some X, none] X O [3, 4, 8] rfl rfl (List.cons_ne_nil _ _)]
  show pickBest [(3, (minimaxL 2 [some X, some O, some X, some X, none, some O, some O, some X, none] O X).2), (4, (minimaxL 2 [some X, some O, some X, none, some X, some O, some O, some X, none] O X).2), (8, (minimaxL 2 [some X, some O, some X, none, none, some O, some O, some X, some X] O X).2)] X = (some 8, 0)
  rw [mmv_0097, mmv_0114, mmv_0116]
  rfl

theorem mmv_0118 : minimaxL 2 [some X, some O, some X, some X, none, some O, none, some X, some O] O X = (some 6, 0) := by
  rw [minimaxL_succ 1 [some X, some O, some X, some X, none, some O, none, some X, some O] O X [4, 6] rfl rfl (List.cons_ne_nil _ _)]
  show pickBest [(4, (minimaxL 1 [some X, some O, some X, some X, some O, some O, none, some X, some O] X O).2), (6, (minimaxL 1 [some X, some O, some X, some X, none, some O, some O, some X, some O] X O).2)] O = (some 6, 0)
  rw [mmv_0072, mmv_0098]
  rfl

theorem mmv_0119 : minimaxL 2 [some X, some O, some X, none, some X, some O, none, some X, some O] O X = (some 6, 0) := by
  rw [minimaxL_succ 1 [some X, some O, some X, none, some X, some O, none, some X, some O] O X [3, 6] rfl rfl (List.cons_ne_nil _ _)]
  show pickBest [(3, (minimaxL 1 [some X, some O, some X, some O, some X, some O, none, some X, some O] X O).2), (6, (minimaxL 1 [some X, some O, some X, none, some X, some O, some O, some X, some O] X O).2)] O = (some 6, 0)
  rw [mmv_0043, mmv_0115]
  rfl

theorem mmv_0120 : minimaxL 2 [some X, some O, some X, none, none, some O, some X, some X, some O] O X = (some 3, 1) := by
  rw [minimaxL_succ 1 [some X, some O, some X, none, none, some O, some X, some X, some O] O X [3, 4] rfl rfl (List.cons_ne_nil _ _)]
  show pickBest [(3, (minimaxL 1 [some X, some O, some X, some O, none, some O, some X, some X, some O] X O).2), (4, (minimaxL 1 [some X, some O, some X, none, some O, some O, some X, some X, some O] X O).2)] O = (some 3, 1)
  rw [mmv_0057, mmv_0087]
  rfl

theorem mmv_0117 : minimaxL 3 [some X, some O, some X, none, none, some O, none, some X, some O] X O = (some 6, 1) := by
  rw [minimaxL_succ 2 [some X, some O, some X, none, none, some O, none, some X, some O] X O [3, 4, 6] rfl rfl (List.cons_ne_nil _ _)]
  show pickBest [(3, (minimaxL 2 [some X, some O, some X, some X, none, some O, none, some X, some O] O X).2), (4, (minimaxL 2 [some X, some O, some X, none, some X, some O, none, some X, some O] O X).2), (6, (minimaxL 2 [some X, some O, some X, none, none, some O, some X, some X, some O] O X).2)] X = (some 6, 1)
  rw [mmv_0118, mmv_0119, mmv_0120]
  rfl

theorem mmv_0112 : minimaxL 4 [some X, some O, some X, none, none, some O, none, some X, none] O X = (some 4, 0) := by
  rw [minimaxL_succ 3 [some X, some O, some X, none, none, some O, none, some X, none] O X [3, 4, 6, 8] rfl rfl (List.cons_ne_nil _ _)]
  show pickBest [(3, (minimaxL 3 [some X, some O, some X, some O, none, some O, none, some X, none] X O).2), (4, (minimaxL 3 [some X, some O, some X, none, some O, some O, none, some X, none] X O).2), (6, (minimaxL 3 [some X, some O, some X, none, none, some O, some O, some X, none] X O).2), (8, (minimaxL 3 [some X, some O, some X, none, none, some O, none, some X, some O] X O).2)] O = (some 4, 0)
  rw [mmv_0040, mmv_0068, mmv_0113, mmv_0117]
  rfl

theorem mmv_0123 : minimaxL 2 [some X, some O, some X, some X, some O, some O, none, none, some X] O X = (some 7, -1) := rfl

theorem mmv_0124 : minimaxL 2 [some X, some O, some X, none, some O, some O, some X, none, some X] O X = (some 7, -1) := rfl

theorem mmv_0122 : minimaxL 3 [some X, some O, some X, none, some O, some O, none, none, some X] X O = (some 7, -1) := by
  rw [minimaxL_succ 2 [some X, some O, some X, none, some O, some O, none, none, some X] X O [3, 6, 7] rfl rfl (List.cons_ne_nil _ _)]
  show pickBest [(3, (minimaxL 2 [some X, some O, some X, some X, some O, some O, none, none, some X] O X).2), (6, (minimaxL 2 [some X, some O, some X, none, some O, some O, some X, none, some X] O X).2), (7, (minimaxL 2 [some X, some O, some X, none, some O, some O, none, some X, some X] O X).2)] X = (some 7, -1)
  rw [mmv_0123, mmv_0124, mmv_0074]
  rfl

theorem mmv_0125 : minimaxL 3 [some X, some O, some X, none, none, some O, some O, none, some X] X O = (some 4, 1) := rfl

theorem mmv_0126 : minimaxL 3 [some X, some O, some X, none, none, some O, none, some O, some X] X O = (some 4, 1) := rfl

theorem mmv_0121 : minimaxL 4 [some X, some O, some X, none, none, some O, none, none, some X] O X = (some 4, -1) := by
  rw [minimaxL_succ 3 [some X, some O, some X, none, none, some O, none, none, some X] O X [3, 4, 6, 7] rfl rfl (List.cons_ne_nil _ _)]
  show pickBest [(3, (minimaxL 3 [some X, some O, some X, some O, none, some O, none, none, some X] X O).2), (4, (minimaxL 3 [some X, some O, some X, none, some O, some O, none, none, some X] X O).2), (6, (minimaxL 3 [some X, some O, some X, none, none, some O, some O, none, some X] X O).2), (7, (minimaxL 3 [some X, some O, some X, none, none, some O, none, some O, some X] X O).2)] O = (some 4, -1)
  rw [mmv_0060, mmv_0122, mmv_0125, mmv_0126]
  rfl

theorem mmv_0089 : minimaxL 5 [some X, some O, some X, none, none, some O, none, none, none] X O = (some 6, 1) := by
  rw [minimaxL_succ 4 [some X, some O, some X, none, none, some O, none, none, none] X O [3, 4, 6, 7, 8] rfl rfl (List.cons_ne_nil _ _)]
  show pickBest [(3, (minimaxL 4 [some X, some O, some X, some X, none, some O, none, none, none] O X).2), (4, (minimaxL 4 [some X, some O, some X, none, some X, some O, none, none, none] O X).2), (6, (minimaxL 4 [some X, some O, some X, none, none, some O, some X, none, none] O X).2), (7, (minimaxL 4 [some X, some O, some X, none, none, some O, none, some X, none] O X).2), (8, (minimaxL 4 [some X, some O, some X, none, none, some O, none, none, some X] O X).2)] X = (some 6, 1)
  rw [mmv_0090, mmv_0104, mmv_0108, mmv_0112, mmv_0121]
  rfl

theorem mmv_0130 : minimaxL 2 [some X, some O, some X, some X, some O, some X, some O, none, none] O X = (some 7, -1) := rfl

theorem mmv_0131 : minimaxL 2 [some X, some O, some X, some X, some O, none, some O, none, some X] O X = (some 7, -1) := rfl

theorem mmv_0129 : minimaxL 3 [some X, some O, some X, some X, some O, none, some O, none, none] X O = (some 7, 0) := by
  rw [minimaxL_succ 2 [some X, some O, some X, some X, some O, none, some O, none, none] X O [5, 7, 8] rfl rfl (List.cons_ne_nil _ _)]
  show pickBest [(5, (minimaxL 2 [some X, some O, some X, some X, some O, some X, some O, none, none] O X).2), (7, (minimaxL 2 [some X, some O, some X, some X, some O, none, some O, some X, none] O X).2), (8, (minimaxL 2 [some X, some O, some X, some X, some O, none, some O, none, some X] O X).2)] X = (some 7, 0)
  rw [mmv_0130, mmv_0076, mmv_0131]
  rfl

theorem mmv_0133 : minimaxL 2 [some X, some O, some X, some X, some X, none, some O, some O, none] O X = (some 8, -1) := rfl

theorem mmv_0134 : minimaxL 2 [some X, some O, some X, some X, none, some X, some O, some O, none] O X = (some 4, -1) := rfl

theorem mmv_0135 : minimaxL 2 [some X, some O, some X, some X, none, none, some O, some O, some X] O X = (some 4, -1) := rfl

theorem mmv_0132 : minimaxL 3 [some X, some O, some X, some X, none, none, some O, some O, none] X O = (some 8, -1) := by
  rw [minimaxL_succ 2 [some X, some O, some X, some X, none, none, some O, some O, none] X O [4, 5, 8] rfl rfl (List.cons_ne_nil _ _)]
  show pickBest [(4, (minimaxL 2 [some X, some O, some X, some X, some X, none, some O, some O, none] O X).2), (5, (minimaxL 2 [some X, some O, some X, some X, none, some X, some O, some O, none] O X).2), (8, (minimaxL 2 [some X, some O, some X, some X, none, none, some O, some O, some X] O X).2)] X = (some 8, -1)
  rw [mmv_0133, mmv_0134, mmv_0135]
  rfl

theorem mmv_0137 : minimaxL 2 [some X, some O, some X, some X, some X, none, some O, none, some O] O X = (some 7, -1) := rfl

theorem mmv_0138 : minimaxL 2 [some X, some O, some X, some X, none, some X, some O, none, some O] O X = (some 7, -1) := rfl

theorem mmv_0139 : minimaxL 2 [some X, some O, some X, some X, none, none, some O, some X, some O] O X = (some 4, 0) := by
  rw [minimaxL_succ 1 [some X, some O, some X, some X, none, none, some O, some X, some O] O X [4, 5] rfl rfl (List.cons_ne_nil _ _)]
  show pickBest [(4, (minimaxL 1 [some X, some O, some X, some X, some O, none, some O, some X, some O] X O).2), (5, (minimaxL 1 [some X, some O, some X, some X, none, some O, some O, some X, some O] X O).2)] O = (some 4, 0)
  rw [mmv_0077, mmv_0098]
  rfl

theorem mmv_0136 : minimaxL 3 [some X, some O, some X, some X, none, none, some O, none, some O] X O = (some 7, 0) := by
  rw [minimaxL_succ 2 [some X, some O, some X, some X, none, none, some O, none, some O] X O [4, 5, 7] rfl rfl (List.cons_ne_nil _ _)]
  show pickBest [(4, (minimaxL 2 [some X, some O, some X, some X, some X, none, some O, none, some O] O X).2), (5, (minimaxL 2 [some X, some O, some X, some X, none, some X, some O, none, some O] O X).2), (7, (minimaxL 2 [some X, some O, some X, some X, none, none, some O, some X, some O] O X).2)] X = (some 7, 0)
  rw [mmv_0137, mmv_0138, mmv_0139]
  rfl

theorem mmv_0128 : minimaxL 4 [some X, some O, some X, some X, none, none, some O, none, none] O X = (some 7, -1) := by
  rw [minimaxL_succ 3 [some X, some O, some X, some X, none, none, some O, none, none] O X [4, 5, 7, 8] rfl rfl (List.cons_ne_nil _ _)]
  show pickBest [(4, (minimaxL 3 [some X, some O, some X, some X, some O, none, some O, none, none] X O).2), (5, (minimaxL 3 [some X, some O, some X, some X, none, some O, some O, none, none] X O).2), (7, (minimaxL 3 [some X, some O, some X, some X, none, none, some O, some O, none] X O).2), (8, (minimaxL 3 [some X, some O, some X, some X, none, none, some O, none, some O] X O).2)] O = (some 7, -1)
  rw [mmv_0129, mmv_0092, mmv_0132, mmv_0136]
  rfl

theorem mmv_0141 : minimaxL 3 [some X, some O, some X, none, some X, none, some O, some O, none] X O = (some 8, 1) := rfl

theorem mmv_0143 : minimaxL 2 [some X, some O, some X, none, some X, some X, some O, none, some O] O X = (some 7, -1) := rfl

theorem mmv_0144 : minimaxL 2 [some X, some O, some X, none, some X, none, some O, some X, some O] O X = (some 3, 0) := by
  rw [minimaxL_succ 1 [some X, some O, some X, none, some X, none, some O, some X, some O] O X [3, 5] rfl rfl (List.cons_ne_nil _ _)]
  show pickBest [(3, (minimaxL 1 [some X, some O, some X, some O, some X, none, some O, some X, some O] X O).2), (5, (minimaxL 1 [some X, some O, some X, none, some X, some O, some O, some X, some O] X O).2)] O = (some 3, 0)
  rw [mmv_0048, mmv_0115]
  rfl

theorem mmv_0142 : minimaxL 3 [some X, some O, some X, none, some X, none, some O, none, some O] X O = (some 7, 0) := by
  rw [minimaxL_succ 2 [some X, some O, some X, none, some X, none, some O, none, some O] X O [3, 5, 7] rfl rfl (List.cons_ne_nil _ _)]
  show pickBest [(3, (minimaxL 2 [some X, some O, some X, some X, some X, none, some O, none, some O] O X).2), (5, (minimaxL 2 [some X, some O, some X, none, some X, some X, some O, none, some O] O X).2), (7, (minimaxL 2 [some X, some O, some X, none, some X, none, some O, some X, some O] O X).2)] X = (some 7, 0)
  rw [mmv_0137, mmv_0143, mmv_0144]
  rfl

theorem mmv_0140 : minimaxL 4 [some X, some O, some X, none, some X, none, some O, none, none] O X = (some 8, 0) := by
  rw [minimaxL_succ 3 [some X, some O, some X, none, some X, none, some O, none, none] O X [3, 5, 7, 8] rfl rfl (List.cons_ne_nil _ _)]
  show pickBest [(3, (minimaxL 3 [some X, some O, some X, some O, some X, none, some O, none, none] X O).2), (5, (minimaxL 3 [some X, some O, some X, none, some X, some O, some O, none, none] X O).2), (7, (minimaxL 3 [some X, some O, some X, none, some X, none, some O, some O, none] X O).2), (8, (minimaxL 3 [some X, some O, some X, none, some X, none, some O, none, some O] X O).2)] O = (some 8, 0)
  rw [mmv_0008, mmv_0105, mmv_0141, mmv_0142]
  rfl

theorem mmv_0146 : minimaxL 3 [some X, some O, some X, none, some O, some X, some O, none, none] X O = (some 8, 1) := rfl

theorem mmv_0147 : minimaxL 3 [some X, some O, some X, none, none, some X, some O, some O, none] X O = (some 8, 1) := rfl

theorem mmv_0149 : minimaxL 2 [some X, some O, some X, none, none, some X, some O, some X, some O] O X = (some 3, 0) := by
  rw [minimaxL_succ 1 [some X, some O, some X, none, none, some X, some O, some X, some O] O X [3, 4] rfl rfl (List.cons_ne_nil _ _)]
  show pickBest [(3, (minimaxL 1 [some X, some O, some X, some O, none, some X, some O, some X, some O] X O).2), (4, (minimaxL 1 [some X, some O, some X, none, some O, some X, some O, some X, some O] X O).2)] O = (some 3, 0)
  rw [mmv_0026, mmv_0080]
  rfl

theorem mmv_0148 : minimaxL 3 [some X, some O, some X, none, none, some X, some O, none, some O] X O = (some 7, 0) := by
  rw [minimaxL_succ 2 [some X, some O, some X, none, none, some X, some O, none, some O] X O [3, 4, 7] rfl rfl (List.cons_ne_nil _ _)]
  show pickBest [(3, (minimaxL 2 [some X, some O, some X, some X, none, some X, some O, none, some O] O X).2), (4, (minimaxL 2 [some X, some O, some X, none, some X, some X, some O, none, some O] O X).2), (7, (minimaxL 2 [some X, some O, some X, none, none, some X, some O, some X, some O] O X).2)] X = (some 7, 0)
  rw [mmv_0138, mmv_0143, mmv_0149]
  rfl

theorem mmv_0145 : minimaxL 4 [some X, some O, some X, none, none, some X, some O, none, none] O X = (some 8, 0) := by
  rw [minimaxL_succ 3 [some X, some O, some X, none, none, some X, some O, none, none] O X [3, 4, 7, 8] rfl rfl (List.cons_ne_nil _ _)]
  show pickBest [(3, (minimaxL 3 [some X, some O, some X, some O, none, some X, some O, none, none] X O).2), (4, (minimaxL 3 [some X, some O, some X, none, some O, some X, some O, none, none] X O).2), (7, (minimaxL 3 [some X, some O, some X, none, none, some X, some O, some O, none] X O).2), (8, (minimaxL 3 [some X, some O, some X, none, none, some X, some O, none, some O] X O).2)] O = (some 8, 0)
  rw [mmv_0013, mmv_0146, mmv_0147, mmv_0148]
  rfl

theorem mmv_0151 : minimaxL 3 [some X, some O, some X, none, none, none, some O, some X, some O] X O = (some 5, 0) := by
  rw [minimaxL_succ 2 [some X, some O, some X, none, none, none, some O, some X, some O] X O [3, 4, 5] rfl rfl (List.cons_ne_nil _ _)]
  show pickBest [(3, (minimaxL 2 [some X, some O, some X, some X, none, none, some O, some X, some O] O X).2), (4, (minimaxL 2 [some X, some O, some X, none, some X, none, some O, some X, some O] O X).2), (5, (minimaxL 2 [some X, some O, some X, none, none, some X, some O, some X, some O] O X).2)] X = (some 5, 0)
  rw [mmv_0139, mmv_0144, mmv_0149]
  rfl

theorem mmv_0150 : minimaxL 4 [some X, some O, some X, none, none, none, some O, some X, none] O X = (some 4, 0) := by
  rw [minimaxL_succ 3 [some X, some O, some X, none, none, none, some O, some X, none] O X [3, 4, 5, 8] rfl rfl (List.cons_ne_nil _ _)]
  show pickBest [(3, (minimaxL 3 [some X, some O, some X, some O, none, none, some O, some X, none] X O).2), (4, (minimaxL 3 [some X, some O, some X, none, some O, none, some O, some X, none] X O).2), (5, (minimaxL 3 [some X, some O, some X, none, none, some O, some O, some X, none] X O).2), (8, (minimaxL 3 [some X, some O, some X, none, none, none, some O, some X, some O] X O).2)] O = (some 4, 0)
  rw [mmv_0046, mmv_0075, mmv_0113, mmv_0151]
  rfl

theorem mmv_0153 : minimaxL 3 [some X, some O, some X, none, some O, none, some O, none, some X] X O = (some 5, 1) := rfl

theorem mmv_0154 : minimaxL 3 [some X, some O, some X, none, none, none, some O, some O, some X] X O = (some 4, 1) := rfl

theorem mmv_0152 : minimaxL 4 [some X, some O, some X, none, none, none, some O, none, some X] O X = (some 3, 1) := by
  rw [minimaxL_succ 3 [some X, some O, some X, none, none, none, some O, none, some X] O X [3, 4, 5, 7] rfl rfl (List.cons_ne_nil _ _)]
  show pickBest [(3, (minimaxL 3 [some X, some O, some X, some O, none, none, some O, none, some X] X O).2), (4, (minimaxL 3 [some X, some O, some X, none, some O, none, some O, none, some X] X O).2), (5, (minimaxL 3 [some X, some O, some X, none, none, some O, some O, none, some X] X O).2), (7, (minimaxL 3 [some X, some O, some X, none, none, none, some O, some O, some X] X O).2)] O = (some 3, 1)
  rw [mmv_0061, mmv_0153, mmv_0125, mmv_0154]
  rfl

theorem mmv_0127 : minimaxL 5 [some X, some O, some X, none, none, none, some O, none, none] X O = (some 8, 1) := by
  rw [minimaxL_succ 4 [some X, some O, some X, none, none, none, some O, none, none] X O [3, 4, 5, 7, 8] rfl rfl (List.cons_ne_nil _ _)]
  show pickBest [(3, (minimaxL 4 [some X, some O, some X, some X, none, none, some O, none, none] O X).2), (4, (minimaxL 4 [some X, some O, some X, none, some X, none, some O, none, none] O X).2), (5, (minimaxL 4 [some X, some O, some X, none, none, some X, some O, none, none] O X).2), (7, (minimaxL 4 [some X, some O, some X, none, none, none, some O, some X, none] O X).2), (8, (minimaxL 4 [some X, some O, some X, none, none, none, some O, none, some X] O X).2)] X = (some 8, 1)
  rw [mmv_0128, mmv_0140, mmv_0145, mmv_0150, mmv_0152]
  rfl

theorem mmv_0156 : minimaxL 4 [some X, some O, some X, some X, none, none, none, some O, none] O X = (some 4, -1) := rfl

theorem mmv_0158 : minimaxL 3 [some X, some O, some X, none, some X, none, none, some O, some O] X O = (some 6, 1) := rfl

theorem mmv_0157 : minimaxL 4 [some X, some O, some X, none, some X, none, none, some O, none] O X = (some 3, 1) := by
  rw [minimaxL_succ 3 [some X, some O, some X, none, some X, none, none, some O, none] O X [3, 5, 6, 8] rfl rfl (List.cons_ne_nil _ _)]
  show pickBest [(3, (minimaxL 3 [some X, some O, some X, some O, some X, none, none, some O, none] X O).2), (5, (minimaxL 3 [some X, some O, some X, none, some X, some O, none, some O, none] X O).2), (6, (minimaxL 3 [some X, some O, some X, none, some X, none, some O, some O, none] X O).2), (8, (minimaxL 3 [some X, some O, some X, none, some X, none, none, some O, some O] X O).2)] O = (some 3, 1)
  rw [mmv_0009, mmv_0106, mmv_0141, mmv_0158]
  rfl

theorem mmv_0159 : minimaxL 4 [some X, some O, some X, none, none, some X, none, some O, none] O X = (some 4, -1) := rfl

theorem mmv_0160 : minimaxL 4 [some X, some O, some X, none, none, none, some X, some O, none] O X = (some 4, -1) := rfl

theorem mmv_0161 : minimaxL 4 [some X, some O, some X, none, none, none, none, some O, some X] O X = (some 4, -1) := rfl

theorem mmv_0155 : minimaxL 5 [some X, some O, some X, none, none, none, none, some O, none] X O = (some 4, 1) := by
  rw [minimaxL_succ 4 [some X, some O, some X, none, none, none, none, some O, none] X O [3, 4, 5, 6, 8] rfl rfl (List.cons_ne_nil _ _)]
  show pickBest [(3, (minimaxL 4 [some X, some O, some X, some X, none, none, none, some O, none] O X).2), (4, (minimaxL 4 [some X, some O, some X, none, some X, none, none, some O, none] O X).2), (5, (minimaxL 4 [some X, some O, some X, none, none, some X, none, some O, none] O X).2), (6, (minimaxL 4 [some X, some O, some X, none, none, none, some X, some O, none] O X).2), (8, (minimaxL 4 [some X, some O, some X, none, none, none, none, some O, some X] O X).2)] X = (some 4, 1)
  rw [mmv_0156, mmv_0157, mmv_0159, mmv_0160, mmv_0161]
  rfl

theorem mmv_0164 : minimaxL 3 [some X, some O, some X, some X, some O, none, none, none, some O] X O = (some 6, 1) := rfl

theorem mmv_0165 : minimaxL 3 [some X, some O, some X, some X, none, none, none, some O, some O] X O = (some 6, 1) := rfl

theorem mmv_0163 : minimaxL 4 [some X, some O, some X, some X, none, none, none, none, some O] O X = (some 6, 0) := by
  rw [minimaxL_succ 3 [some X, some O, some X, some X, none, none, none, none, some O] O X [4, 5, 6, 7] rfl rfl (List.cons_ne_nil _ _)]
  show pickBest [(4, (minimaxL 3 [some X, some O, some X, some X, some O, none, none, none, some O] X O).2), (5, (minimaxL 3 [some X, some O, some X, some X, none, some O, none, none, some O] X O).2), (6, (minimaxL 3 [some X, some O, some X, some X, none, none, some O, none, some O] X O).2), (7, (minimaxL 3 [some X, some O, some X, some X, none, none, none, some O, some O] X O).2)] O = (some 6, 0)
  rw [mmv_0164, mmv_0103, mmv_0136, mmv_0165]
  rfl

theorem mmv_0166 : minimaxL 4 [some X, some O, some X, none, some X, none, none, none, some O] O X = (some 6, 0) := by
  rw [minimaxL_succ 3 [some X, some O, some X, none, some X, none, none, none, some O] O X [3, 5, 6, 7] rfl rfl (List.cons_ne_nil _ _)]
  show pickBest [(3, (minimaxL 3 [some X, some O, some X, some O, some X, none, none, none, some O] X O).2), (5, (minimaxL 3 [some X, some O, some X, none, some X, some O, none, none, some O] X O).2), (6, (minimaxL 3 [some X, some O, some X, none, some X, none, some O, none, some O] X O).2), (7, (minimaxL 3 [some X, some O, some X, none, some X, none, none, some O, some O] X O).2)] O = (some 6, 0)
  rw [mmv_0010, mmv_0107, mmv_0142, mmv_0158]
  rfl

theorem mmv_0169 : minimaxL 2 [some X, some O, some X, some X, some O, some X, none, none, some O] O X = (some 7, -1) := rfl

theorem mmv_0170 : minimaxL 2 [some X, some O, some X, none, some O, some X, some X, none, some O] O X = (some 7, -1) := rfl

theorem mmv_0168 : minimaxL 3 [some X, some O, some X, none, some O, some X, none, none, some O] X O = (some 7, 0) := by
  rw [minimaxL_succ 2 [some X, some O, some X, none, some O, some X, none, none, some O] X O [3, 6, 7] rfl rfl (List.cons_ne_nil _ _)]
  show pickBest [(3, (minimaxL 2 [some X, some O, some X, some X, some O, some X, none, none, some O] O X).2), (6, (minimaxL 2 [some X, some O, some X, none, some O, some X, some X, none, some O] O X).2), (7, (minimaxL 2 [some X, some O, some X, none, some O, some X, none, some X, some O] O X).2)] X = (some 7, 0)
  rw [mmv_0169, mmv_0170, mmv_0085]
  rfl

theorem mmv_0172 : minimaxL 2 [some X, some O, some X, some X, none, some X, none, some O, some O] O X = (some 4, -1) := rfl

theorem mmv_0173 : minimaxL 2 [some X, some O, some X, none, some X, some X, none, some O, some O] O X = (some 6, -1) := rfl

theorem mmv_0174 : minimaxL 2 [some X, some O, some X, none, none, some X, some X, some O, some O] O X = (some 4, -1) := rfl

theorem mmv_0171 : minimaxL 3 [some X, some O, some X, none, none, some X, none, some O, some O] X O = (some 6, -1) := by
  rw [minimaxL_succ 2 [some X, some O, some X, none, none, some X, none, some O, some O] X O [3, 4, 6] rfl rfl (List.cons_ne_nil _ _)]
  show pickBest [(3, (minimaxL 2 [some X, some O, some X, some X, none, some X, none, some O, some O] O X).2), (4, (minimaxL 2 [some X, some O, some X, none, some X, some X, none, some O, some O] O X).2), (6, (minimaxL 2 [some X, some O, some X, none, none, some X, some X, some O, some O] O X).2)] X = (some 6, -1)
  rw [mmv_0172, mmv_0173, mmv_0174]
  rfl

theorem mmv_0167 : minimaxL 4 [some X, some O, some X, none, none, some X, none, none, some O] O X = (some 7, -1) := by
  rw [minimaxL_succ 3 [some X, some O, some X, none, none, some X, none, none, some O] O X [3, 4, 6, 7] rfl rfl (List.cons_ne_nil _ _)]
  show pickBest [(3, (minimaxL 3 [some X, some O, some X, some O, none, some X, none, none, some O] X O).2), (4, (minimaxL 3 [some X, some O, some X, none, some O, some X, none, none, some O] X O).2), (6, (minimaxL 3 [some X, some O, some X, none, none, some X, some O, none, some O] X O).2), (7, (minimaxL 3 [some X, some O, some X, none, none, some X, none, some O, some O] X O).2)] O = (some 7, -1)
  rw [mmv_0015, mmv_0168, mmv_0148, mmv_0171]
  rfl

theorem mmv_0176 : minimaxL 3 [some X, some O, some X, none, some O, none, some X, none, some O] X O = (some 3, 1) := rfl

theorem mmv_0177 : minimaxL 3 [some X, some O, some X, none, none, none, some X, some O, some O] X O = (some 3, 1) := rfl

theorem mmv_0175 : minimaxL 4 [some X, some O, some X, none, none, none, some X, none, some O] O X = (some 3, 1) := by
  rw [minimaxL_succ 3 [some X, some O, some X, none, none, none, some X, none, some O] O X [3, 4, 5, 7] rfl rfl (List.cons_ne_nil _ _)]
  show pickBest [(3, (minimaxL 3 [some X, some O, some X, some O, none, none, some X, none, some O] X O).2), (4, (minimaxL 3 [some X, some O, some X, none, some O, none, some X, none, some O] X O).2), (5, (minimaxL 3 [some X, some O, some X, none, none, some O, some X, none, some O] X O).2), (7, (minimaxL 3 [some X, some O, some X, none, none, none, some X, some O, some O] X O).2)] O = (some 3, 1)
  rw [mmv_0034, mmv_0176, mmv_0111, mmv_0177]
  rfl

theorem mmv_0178 : minimaxL 4 [some X, some O, some X, none, none, none, none, some X, some O] O X = (some 3, 0) := by
  rw [minimaxL_succ 3 [some X, some O, some X, none, none, none, none, some X, some O] O X [3, 4, 5, 6] rfl rfl (List.cons_ne_nil _ _)]
  show pickBest [(3, (minimaxL 3 [some X, some O, some X, some O, none, none, none, some X, some O] X O).2), (4, (minimaxL 3 [some X, some O, some X, none, some O, none, none, some X, some O] X O).2), (5, (minimaxL 3 [some X, some O, some X, none, none, some O, none, some X, some O] X O).2), (6, (minimaxL 3 [some X, some O, some X, none, none, none, some O, some X, some O] X O).2)] O = (some 3, 0)
  rw [mmv_0053, mmv_0083, mmv_0117, mmv_0151]
  rfl

theorem mmv_0162 : minimaxL 5 [some X, some O, some X, none, none, none, none, none, some O] X O = (some 6, 1) := by
  rw [minimaxL_succ 4 [some X, some O, some X, none, none, none, none, none, some O] X O [3, 4, 5, 6, 7] rfl rfl (List.cons_ne_nil _ _)]
  show pickBest [(3, (minimaxL 4 [some X, some O, some X, some X, none, none, none, none, some O] O X).2), (4, (minimaxL 4 [some X, some O, some X, none, some X, none, none, none, some O] O X).2), (5, (minimaxL 4 [some X, some O, some X, none, none, some X, none, none, some O] O X).2), (6, (minimaxL 4 [some X, some O, some X, none, none, none, some X, none, some O] O X).2), (7, (minimaxL 4 [some X, some O, some X, none, none, none, none, some X, some O] O X).2)] X = (some 6, 1)
  rw [mmv_0163, mmv_0166, mmv_0167, mmv_0175, mmv_0178]
  rfl

theorem mmv_0004 : minimaxL 6 [some X, some O, some X, none, none, none, none, none, none] O X = (some 4, 0) := by
  rw [minimaxL_succ 5 [some X, some O, some X, none, none, none, none, none, none] O X [3, 4, 5, 6, 7, 8] rfl rfl (List.cons_ne_nil _ _)]
  show pickBest [(3, (minimaxL 5 [some X, some O, some X, some O, none, none, none, none, none] X O).2), (4, (minimaxL 5 [some X, some O, some X, none, some O, none, none, none, none] X O).2), (5, (minimaxL 5 [some X, some O, some X, none, none, some O, none, none, none] X O).2), (6, (minimaxL 5 [some X, some O, some X, none, none, none, some O, none, none] X O).2), (7, (minimaxL 5 [some X, some O, some X, none, none, none, none, some O, none] X O).2), (8, (minimaxL 5 [some X, some O, some X, none, none, none, none, none, some O] X O).2)] O = (some 4, 0)
  rw [mmv_0005, mmv_0063, mmv_0089, mmv_0127, mmv_0155, mmv_0162]
  rfl

theorem mmv_0180 : minimaxL 5 [some X, some O, some O, some X, none, none, none, none, none] X O = (some 6, 1) := rfl

theorem mmv_0181 : minimaxL 5 [some X, some O, none, some X, some O, none, none, none, none] X O = (some 6, 1) := rfl

theorem mmv_0182 : minimaxL 5 [some X, some O, none, some X, none, some O, none, none, none] X O = (some 6, 1) := rfl

theorem mmv_0185 : minimaxL 3 [some X, some O, some O, some X, some X, none, some O, none, none] X O = (some 8, 1) := rfl

theorem mmv_0186 : minimaxL 3 [some X, some O, none, some X, some X, some O, some O, none, none] X O = (some 8, 1) := rfl

theorem mmv_0187 : minimaxL 3 [some X, some O, none, some X, some X, none, some O, some O, none] X O = (some 8, 1) := rfl

theorem mmv_0188 : minimaxL 3 [some X, some O, none, some X, some X, none, some O, none, some O] X O = (some 5, 1) := rfl

theorem mmv_0184 : minimaxL 4 [some X, some O, none, some X, some X, none, some O, none, none] O X = (some 2, 1) := by
  rw [minimaxL_succ 3 [some X, some O, none, some X, some X, none, some O, none, none] O X [2, 5, 7, 8] rfl rfl (List.cons_ne_nil _ _)]
  show pickBest [(2, (minimaxL 3 [some X, some O, some O, some X, some X, none, some O, none, none] X O).2), (5, (minimaxL 3 [some X, some O, none, some X, some X, some O, some O, none, none] X O).2), (7, (minimaxL 3 [some X, some O, none, some X, some X, none, some O, some O, none] X O).2), (8, (minimaxL 3 [some X, some O, none, some X, some X, none, some O, none, some O] X O).2)] O = (some 2, 1)
  rw [mmv_0185, mmv_0186, mmv_0187, mmv_0188]
  rfl

theorem mmv_0190 : minimaxL 3 [some X, some O, some O, some X, none, some X, some O, none, none] X O = (some 4, 1) := rfl

theorem mmv_0192 : minimaxL 2 [some X, some O, none, some X, some O, some X, some O, some X, none] O X = (some 2, -1) := rfl

theorem mmv_0193 : minimaxL 2 [some X, some O, none, some X, some O, some X, some O, none, some X] O X = (some 7, -1) := rfl

theorem mmv_0191 : minimaxL 3 [some X, some O, none, some X, some O, some X, some O, none, none] X O = (some 8, -1) := by
  rw [minimaxL_succ 2 [some X, some O, none, some X, some O, some X, some O, none, none] X O [2, 7, 8] rfl rfl (List.cons_ne_nil _ _)]
  show pickBest [(2, (minimaxL 2 [some X, some O, some X, some X, some O, some X, some O, none, none] O X).2), (7, (minimaxL 2 [some X, some O, none, some X, some O, some X, some O, some X, none] O X).2), (8, (minimaxL 2 [some X, some O, none, some X, some O, some X, some O, none, some X] O X).2)] X = (some 8, -1)
  rw [mmv_0130, mmv_0192, mmv_0193]
  rfl

theorem mmv_0194 : minimaxL 3 [some X, some O, none, some X, none, some X, some O, some O, none] X O = (some 4, 1) := rfl

theorem mmv_0195 : minimaxL 3 [some X, some O, none, some X, none, some X, some O, none, some O] X O = (some 4, 1) := rfl

theorem mmv_0189 : minimaxL 4 [some X, some O, none, some X, none, some X, some O, none, none] O X = (some 4, -1) := by
  rw [minimaxL_succ 3 [some X, some O, none, some X, none, some X, some O, none, none] O X [2, 4, 7, 8] rfl rfl (List.cons_ne_nil _ _)]
  show pickBest [(2, (minimaxL 3 [some X, some O, some O, some X, none, some X, some O, none, none] X O).2), (4, (minimaxL 3 [some X, some O, none, some X, some O, some X, some O, none, none] X O).2), (7, (minimaxL 3 [some X, some O, none, some X, none, some X, some O, some O, none] X O).2), (8, (minimaxL 3 [some X, some O, none, some X, none, some X, some O, none, some O] X O).2)] O = (some 4, -1)
  rw [mmv_0190, mmv_0191, mmv_0194, mmv_0195]
  rfl

theorem mmv_0199 : minimaxL 1 [some X, some O, some O, some X, some X, some O, some O, some X, none] X O = (some 8, 1) := rfl

theorem mmv_0200 : minimaxL 1 [some X, some O, some O, some X, some X, none, some O, some X, some O] X O = (some 5, 1) := rfl

theorem mmv_0198 : minimaxL 2 [some X, some O, some O, some X, some X, none, some O, some X, none] O X = (some 5, 1) := by
  rw [minimaxL_succ 1 [some X, some O, some O, some X, some X, none, some O, some X, none] O X [5, 8] rfl rfl (List.cons_ne_nil _ _)]
  show pickBest [(5, (minimaxL 1 [some X, some O, some O, some X, some X, some O, some O, some X, none] X O).2), (8, (minimaxL 1 [some X, some O, some O, some X, some X, none, some O, some X, some O] X O).2)] O = (some 5, 1)
  rw [mmv_0199, mmv_0200]
  rfl

theorem mmv_0201 : minimaxL 2 [some X, some O, some O, some X, none, some X, some O, some X, none] O X = (some 4, -1) := rfl

theorem mmv_0202 : minimaxL 2 [some X, some O, some O, some X, none, none, some O, some X, some X] O X = (some 4, -1) := rfl

theorem mmv_0197 : minimaxL 3 [some X, some O, some O, some X, none, none, some O, some X, none] X O = (some 4, 1) := by
  rw [minimaxL_succ 2 [some X, some O, some O, some X, none, none, some O, some X, none] X O [4, 5, 8] rfl rfl (List.cons_ne_nil _ _)]
  show pickBest [(4, (minimaxL 2 [some X, some O, some O, some X, some X, none, some O, some X, none] O X).2), (5, (minimaxL 2 [some X, some O, some O, some X, none, some X, some O, some X, none] O X).2), (8, (minimaxL 2 [some X, some O, some O, some X, none, none, some O, some X, some X] O X).2)] X = (some 4, 1)
  rw [mmv_0198, mmv_0201, mmv_0202]
  rfl

theorem mmv_0204 : minimaxL 2 [some X, some O, none, some X, some O, none, some O, some X, some X] O X = (some 2, -1) := rfl

theorem mmv_0203 : minimaxL 3 [some X, some O, none, some X, some O, none, some O, some X, none] X O = (some 2, 0) := by
  rw [minimaxL_succ 2 [some X, some O, none, some X, some O, none, some O, some X, none] X O [2, 5, 8] rfl rfl (List.cons_ne_nil _ _)]
  show pickBest [(2, (minimaxL 2 [some X, some O, some X, some X, some O, none, some O, some X, none] O X).2), (5, (minimaxL 2 [some X, some O, none, some X, some O, some X, some O, some X, none] O X).2), (8, (minimaxL 2 [some X, some O, none, some X, some O, none, some O, some X, some X] O X).2)] X = (some 2, 0)
  rw [mmv_0076, mmv_0192, mmv_0204]
  rfl

theorem mmv_0207 : minimaxL 1 [some X, some O, none, some X, some X, some O, some O, some X, some O] X O = (some 2, 0) := by
  rw [minimaxL_succ 0 [some X, some O, none, some X, some X, some O, some O, some X, some O] X O [2] rfl rfl (List.cons_ne_nil _ _)]
  show pickBest [(2, (minimaxL 0 [some X, some O, some X, some X, some X, some O, some O, some X, some O] O X).2)] X = (some 2, 0)
  rw [mmv_0096]
  rfl

theorem mmv_0206 : minimaxL 2 [some X, some O, none, some X, some X, some O, some O, some X, none] O X = (some 8, 0) := by
  rw [minimaxL_succ 1 [some X, some O, none, some X, some X, some O, some O, some X, none] O X [2, 8] rfl rfl (List.cons_ne_nil _ _)]
  show pickBest [(2, (minimaxL 1 [some X, some O, some O, some X, some X, some O, some O, some X, none] X O).2), (8, (minimaxL 1 [some X, some O, none, some X, some X, some O, some O, some X, some O] X O).2)] O = (some 8, 0)
  rw [mmv_0199, mmv_0207]
  rfl

theorem mmv_0209 : minimaxL 1 [some X, some O, some O, some X, none, some O, some O, some X, some X] X O = (some 4, 1) := rfl

theorem mmv_0210 : minimaxL 1 [some X, some O, none, some X, some O, some O, some O, some X, some X] X O = (some 2, 0) := by
  rw [minimaxL_succ 0 [some X, some O, none, some X, some O, some O, some O, some X, some X] X O [2] rfl rfl (List.cons_ne_nil _ _)]
  show pickBest [(2, (minimaxL 0 [some X, some O, some X, some X, some O, some O, some O, some X, some X] O X).2)] X = (some 2, 0)
  rw [mmv_0071]
  rfl

theorem mmv_0208 : minimaxL 2 [some X, some O, none, some X, none, some O, some O, some X, some X] O X = (some 4, 0) := by
  rw [minimaxL_succ 1 [some X, some O, none, some X, none, some O, some O, some X, some X] O X [2, 4] rfl rfl (List.cons_ne_nil _ _)]
  show pickBest [(2, (minimaxL 1 [some X, some O, some O, some X, none, some O, some O, some X, some X] X O).2), (4, (minimaxL 1 [some X, some O, none, some X, some O, some O, some O, some X, some X] X O).2)] O = (some 4, 0)
  rw [mmv_0209, mmv_0210]
  rfl

theorem mmv_0205 : minimaxL 3 [some X, some O, none, some X, none, some O, some O, some X, none] X O = (some 8, 0) := by
  rw [minimaxL_succ 2 [some X, some O, none, some X, none, some O, some O, some X, none] X O [2, 4, 8] rfl rfl (List.cons_ne_nil _ _)]
  show pickBest [(2, (minimaxL 2 [some X, some O, some X, some X, none, some O, some O, some X, none] O X).2), (4, (minimaxL 2 [some X, some O, none, some X, some X, some O, some O, some X, none] O X).2), (8, (minimaxL 2 [some X, some O, none, some X, none, some O, some O, some X, some X] O X).2)] X = (some 8, 0)
  rw [mmv_0097, mmv_0206, mmv_0208]
  rfl

theorem mmv_0212 : minimaxL 2 [some X, some O, none, some X, some X, none, some O, some X, some O] O X = (some 5, 0) := by
  rw [minimaxL_succ 1 [some X, some O, none, some X, some X, none, some O, some X, some O] O X [2, 5] rfl rfl (List.cons_ne_nil _ _)]
  show pickBest [(2, (minimaxL 1 [some X, some O, some O, some X, some X, none, some O, some X, some O] X O).2), (5, (minimaxL 1 [some X, some O, none, some X, some X, some O, some O, some X, some O] X O).2)] O = (some 5, 0)
  rw [mmv_0200, mmv_0207]
  rfl

theorem mmv_0214 : minimaxL 1 [some X, some O, some O, some X, none, some X, some O, some X, some O] X O = (some 4, 1) := rfl

theorem mmv_0215 : minimaxL 1 [some X, some O, none, some X, some O, some X, some O, some X, some O] X O = (some 2, 0) := by
  rw [minimaxL_succ 0 [some X, some O, none, some X, some O, some X, some O, some X, some O] X O [2] rfl rfl (List.cons_ne_nil _ _)]
  show pickBest [(2, (minimaxL 0 [some X, some O, some X, some X, some O, some X, some O, some X, some O] O X).2)] X = (some 2, 0)
  rw [mmv_0078]
  rfl

theorem mmv_0213 : minimaxL 2 [some X, some O, none, some X, none, some X, some O, some X, some O] O X = (some 4, 0) := by
  rw [minimaxL_succ 1 [some X, some O, none, some X, none, some X, some O, some X, some O] O X [2, 4] rfl rfl (List.cons_ne_nil _ _)]
  show pickBest [(2, (minimaxL 1 [some X, some O, some O, some X, none, some X, some O, some X, some O] X O).2), (4, (minimaxL 1 [some X, some O, none, some X, some O, some X, some O, some X, some O] X O).2)] O = (some 4, 0)
  rw [mmv_0214, mmv_0215]
  rfl

theorem mmv_0211 : minimaxL 3 [some X, some O, none, some X, none, none, some O, some X, some O] X O = (some 5, 0) := by
  rw [minimaxL_succ 2 [some X, some O, none, some X, none, none, some O, some X, some O] X O [2, 4, 5] rfl rfl (List.cons_ne_nil _ _)]
  show pickBest [(2, (minimaxL 2 [some X, some O, some X, some X, none, none, some O, some X, some O] O X).2), (4, (minimaxL 2 [some X, some O, none, some X, some X, none, some O, some X, some O] O X).2), (5, (minimaxL 2 [some X, some O, none, some X, none, some X, some O, some X, some O] O X).2)] X = (some 5, 0)
  rw [mmv_0139, mmv_0212, mmv_0213]
  rfl

theorem mmv_0196 : minimaxL 4 [some X, some O, none, some X, none, none, some O, some X, none] O X = (some 4, 0) := by
  rw [minimaxL_succ 3 [some X, some O, none, some X, none, none, some O, some X, none] O X [2, 4, 5, 8] rfl rfl (List.cons_ne_nil _ _)]
  show pickBest [(2, (minimaxL 3 [some X, some O, some O, some X, none, none, some O, some X, none] X O).2), (4, (minimaxL 3 [some X, some O, none, some X, some O, none, some O, some X, none] X O).2), (5, (minimaxL 3 [some X, some O, none, some X, none, some O, some O, some X, none] X O).2), (8, (minimaxL 3 [some X, some O, none, some X, none, none, some O, some X, some O] X O).2)] O = (some 4, 0)
  rw [mmv_0197, mmv_0203, mmv_0205, mmv_0211]
  rfl

theorem mmv_0217 : minimaxL 3 [some X, some O, some O, some X, none, none, some O, none, some X] X O = (some 4, 1) := rfl

theorem mmv_0218 : minimaxL 3 [some X, some O, none, some X, some O, none, some O, none, some X] X O = (some 7, -1) := by
  rw [minimaxL_succ 2 [some X, some O, none, some X, some O, none, some O, none, some X] X O [2, 5, 7] rfl rfl (List.cons_ne_nil _ _)]
  show pickBest [(2, (minimaxL 2 [some X, some O, some X, some X, some O, none, some O, none, some X] O X).2), (5, (minimaxL 2 [some X, some O, none, some X, some O, some X, some O, none, some X] O X).2), (7, (minimaxL 2 [some X, some O, none, some X, some O, none, some O, some X, some X] O X).2)] X = (some 7, -1)
  rw [mmv_0131, mmv_0193, mmv_0204]
  rfl

theorem mmv_0219 : minimaxL 3 [some X, some O, none, some X, none, some O, some O, none, some X] X O = (some 4, 1) := rfl

theorem mmv_0220 : minimaxL 3 [some X, some O, none, some X, none, none, some O, some O, some X] X O = (some 4, 1) := rfl

theorem mmv_0216 : minimaxL 4 [some X, some O, none, some X, none, none, some O, none, some X] O X = (some 4, -1) := by
  rw [minimaxL_succ 3 [some X, some O, none, some X, none, none, some O, none, some X] O X [2, 4, 5, 7] rfl rfl (List.cons_ne_nil _ _)]
  show pickBest [(2, (minimaxL 3 [some X, some O, some O, some X, none, none, some O, none, some X] X O).2), (4, (minimaxL 3 [some X, some O, none, some X, some O, none, some O, none, some X] X O).2), (5, (minimaxL 3 [some X, some O, none, some X, none, some O, some O, none, some X] X O).2), (7, (minimaxL 3 [some X, some O, none, some X, none, none, some O, some O, some X] X O).2)] O = (some 4, -1)
  rw [mmv_0217, mmv_0218, mmv_0219, mmv_0220]
  rfl

theorem mmv_0183 : minimaxL 5 [some X, some O, none, some X, none, none, some O, none, none] X O = (some 4, 1) := by
  rw [minimaxL_succ 4 [some X, some O, none, some X, none, none, some O, none, none] X O [2, 4, 5, 7, 8] rfl rfl (List.cons_ne_nil _ _)]
  show pickBest [(2, (minimaxL 4 [some X, some O, some X, some X, none, none, some O, none, none] O X).2), (4, (minimaxL 4 [some X, some O, none, some X, some X, none, some O, none, none] O X).2), (5, (minimaxL 4 [some X, some O, none, some X, none, some X, some O, none, none] O X).2), (7, (minimaxL 4 [some X, some O, none, some X, none, none, some O, some X, none] O X).2), (8, (minimaxL 4 [some X, some O, none, some X, none, none, some O, none, some X] O X).2)] X = (some 4, 1)
  rw [mmv_0128, mmv_0184, mmv_0189, mmv_0196, mmv_0216]
  rfl

theorem mmv_0221 : minimaxL 5 [some X, some O, none, some X, none, none, none, some O, none] X O = (some 6, 1) := rfl

theorem mmv_0222 : minimaxL 5 [some X, some O, none, some X, none, none, none, none, some O] X O = (some 6, 1) := rfl

theorem mmv_0179 : minimaxL 6 [some X, some O, none, some X, none, none, none, none, none] O X = (some 2, 1) := by
  rw [minimaxL_succ 5 [some X, some O, none, some X, none, none, none, none, none] O X [2, 4, 5, 6, 7, 8] rfl rfl (List.cons_ne_nil _ _)]
  show pickBest [(2, (minimaxL 5 [some X, some O, some O, some X, none, none, none, none, none] X O).2), (4, (minimaxL 5 [some X, some O, none, some X, some O, none, none, none, none] X O).2), (5, (minimaxL 5 [some X, some O, none, some X, none, some O, none, none, none] X O).2), (6, (minimaxL 5 [some X, some O, none, some X, none, none, some O, none, none] X O).2), (7, (minimaxL 5 [some X, some O, none, some X, none, none, none, some O, none] X O).2), (8, (minimaxL 5 [some X, some O, none, some X, none, none, none, none, some O] X O).2)] O = (some 2, 1)
  rw [mmv_0180, mmv_0181, mmv_0182, mmv_0183, mmv_0221, mmv_0222]
  rfl

theorem mmv_0224 : minimaxL 5 [some X, some O, some O, none, some X, none, none, none, none] X O = (some 8, 1) := rfl

theorem mmv_0225 : minimaxL 5 [some X, some O, none, some O, some X, none, none, none, none] X O = (some 8, 1) := rfl

theorem mmv_0226 : minimaxL 5 [some X, some O, none, none, some X, some O, none, none, none] X O = (some 8, 1) := rfl

theorem mmv_0227 : minimaxL 5 [some X, some O, none, none, some X, none, some O, none, none] X O = (some 8, 1) := rfl

theorem mmv_0228 : minimaxL 5 [some X, some O, none, none, some X, none, none, some O, none] X O = (some 8, 1) := rfl

theorem mmv_0231 : minimaxL 3 [some X, some O, some O, some X, some X, none, none, none, some O] X O = (some 6, 1) := rfl

theorem mmv_0232 : minimaxL 3 [some X, some O, none, some X, some X, some O, none, none, some O] X O = (some 6, 1) := rfl

theorem mmv_0233 : minimaxL 3 [some X, some O, none, some X, some X, none, none, some O, some O] X O = (some 6, 1) := rfl

theorem mmv_0230 : minimaxL 4 [some X, some O, none, some X, some X, none, none, none, some O] O X = (some 2, 1) := by
  rw [minimaxL_succ 3 [some X, some O, none, some X, some X, none, none, none, some O] O X [2, 5, 6, 7] rfl rfl (List.cons_ne_nil _ _)]
  show pickBest [(2, (minimaxL 3 [some X, some O, some O, some X, some X, none, none, none, some O] X O).2), (5, (minimaxL 3 [some X, some O, none, some X, some X, some O, none, none, some O] X O).2), (6, (minimaxL 3 [some X, some O, none, some X, some X, none, some O, none, some O] X O).2), (7, (minimaxL 3 [some X, some O, none, some X, some X, none, none, some O, some O] X O).2)] O = (some 2, 1)
  rw [mmv_0231, mmv_0232, mmv_0188, mmv_0233]
  rfl

theorem mmv_0235 : minimaxL 3 [some X, some O, some O, none, some X, some X, none, none, some O] X O = (some 3, 1) := rfl

theorem mmv_0239 : minimaxL 0 [some X, some O, some O, some O, some X, some X, some X, some X, some O] O X = (none, 0) := rfl

theorem mmv_0238 : minimaxL 1 [some X, some O, some O, some O, some X, some X, some X, none, some O] X O = (some 7, 0) := by
  rw [minimaxL_succ 0 [some X, some O, some O, some O, some X, some X, some X, none, some O] X O [7] rfl rfl (List.cons_ne_nil _ _)]
  show pickBest [(7, (minimaxL 0 [some X, some O, some O, some O, some X, some X, some X, some X, some O] O X).2)] X = (some 7, 0)
  rw [mmv_0239]
  rfl

theorem mmv_0240 : minimaxL 1 [some X, some O, none, some O, some X, some X, some X, some O, some O] X O = (some 2, 1) := rfl

theorem mmv_0237 : minimaxL 2 [some X, some O, none, some O, some X, some X, some X, none, some O] O X = (some 2, 0) := by
  rw [minimaxL_succ 1 [some X, some O, none, some O, some X, some X, some X, none, some O] O X [2, 7] rfl rfl (List.cons_ne_nil _ _)]
  show pickBest [(2, (minimaxL 1 [some X, some O, some O, some O, some X, some X, some X, none, some O] X O).2), (7, (minimaxL 1 [some X, some O, none, some O, some X, some X, some X, some O, some O] X O).2)] O = (some 2, 0)
  rw [mmv_0238, mmv_0240]
  rfl

theorem mmv_0242 : minimaxL 1 [some X, some O, some O, some O, some X, some X, none, some X, some O] X O = (some 6, 0) := by
  rw [minimaxL_succ 0 [some X, some O, some O, some O, some X, some X, none, some X, some O] X O [6] rfl rfl (List.cons_ne_nil _ _)]
  show pickBest [(6, (minimaxL 0 [some X, some O, some O, some O, some X, some X, some X, some X, some O] O X).2)] X = (some 6, 0)
  rw [mmv_0239]
  rfl

theorem mmv_0243 : minimaxL 1 [some X, some O, none, some O, some X, some X, some O, some X, some O] X O = (some 2, 0) := by
  rw [minimaxL_succ 0 [some X, some O, none, some O, some X, some X, some O, some X, some O] X O [2] rfl rfl (List.cons_ne_nil _ _)]
  show pickBest [(2, (minimaxL 0 [some X, some O, some X, some O, some X, some X, some O, some X, some O] O X).2)] X = (some 2, 0)
  rw [mmv_0018]
  rfl

theorem mmv_0241 : minimaxL 2 [some X, some O, none, some O, some X, some X, none, some X, some O] O X = (some 2, 0) := by
  rw [minimaxL_succ 1 [some X, some O, none, some O, some X, some X, none, some X, some O] O X [2, 6] rfl rfl (List.cons_ne_nil _ _)]
  show pickBest [(2, (minimaxL 1 [some X, some O, some O, some O, some X, some X, none, some X, some O] X O).2), (6, (minimaxL 1 [some X, some O, none, some O, some X, some X, some O, some X, some O] X O).2)] O = (some 2, 0)
  rw [mmv_0242, mmv_0243]
  rfl

theorem mmv_0236 : minimaxL 3 [some X, some O, none, some O, some X, some X, none, none, some O] X O = (some 7, 0) := by
  rw [minimaxL_succ 2 [some X, some O, none, some O, some X, some X, none, none, some O] X O [2, 6, 7] rfl rfl (List.cons_ne_nil _ _)]
  show pickBest [(2, (minimaxL 2 [some X, some O, some X, some O, some X, some X, none, none, some O] O X).2), (6, (minimaxL 2 [some X, some O, none, some O, some X, some X, some X, none, some O] O X).2), (7, (minimaxL 2 [some X, some O, none, some O, some X, some X, none, some X, some O] O X).2)] X = (some 7, 0)
  rw [mmv_0016, mmv_0237, mmv_0241]
  rfl

theorem mmv_0244 : minimaxL 3 [some X, some O, none, none, some X, some X, some O, none, some O] X O = (some 3, 1) := rfl

theorem mmv_0245 : minimaxL 3 [some X, some O, none, none, some X, some X, none, some O, some O] X O = (some 3, 1) := rfl

theorem mmv_0234 : minimaxL 4 [some X, some O, none, none, some X, some X, none, none, some O] O X = (some 3, 0) := by
  rw [minimaxL_succ 3 [some X, some O, none, none, some X, some X, none, none, some O] O X [2, 3, 6, 7] rfl rfl (List.cons_ne_nil _ _)]
  show pickBest [(2, (minimaxL 3 [some X, some O, some O, none, some X, some X, none, none, some O] X O).2), (3, (minimaxL 3 [some X, some O, none, some O, some X, some X, none, none, some O] X O).2), (6, (minimaxL 3 [some X, some O, none, none, some X, some X, some O, none, some O] X O).2), (7, (minimaxL 3 [some X, some O, none, none, some X, some X, none, some O, some O] X O).2)] O = (some 3, 0)
  rw [mmv_0235, mmv_0236, mmv_0244, mmv_0245]
  rfl

theorem mmv_0247 : minimaxL 3 [some X, some O, some O, none, some X, none, some X, none, some O] X O = (some 3, 1) := rfl

theorem mmv_0248 : minimaxL 3 [some X, some O, none, some O, some X, none, some X, none, some O] X O = (some 2, 1) := rfl

theorem mmv_0249 : minimaxL 3 [some X, some O, none, none, some X, some O, some X, none, some O] X O = (some 3, 1) := rfl

theorem mmv_0250 : minimaxL 3 [some X, some O, none, none, some X, none, some X, some O, some O] X O = (some 3, 1) := rfl

theorem mmv_0246 : minimaxL 4 [some X, some O, none, none, some X, none, some X, none, some O] O X = (some 2, 1) := by
  rw [minimaxL_succ 3 [some X, some O, none, none, some X, none, some X, none, some O] O X [2, 3, 5, 7] rfl rfl (List.cons_ne_nil _ _)]
  show pickBest [(2, (minimaxL 3 [some X, some O, some O, none, some X, none, some X, none, some O] X O).2), (3, (minimaxL 3 [some X, some O, none, some O, some X, none, some X, none, some O] X O).2), (5, (minimaxL 3 [some X, some O, none, none, some X, some O, some X, none, some O] X O).2), (7, (minimaxL 3 [some X, some O, none, none, some X, none, some X, some O, some O] X O).2)] O = (some 2, 1)
  rw [mmv_0247, mmv_0248, mmv_0249, mmv_0250]
  rfl

theorem mmv_0253 : minimaxL 2 [some X, some O, some O, some X, some X, none, none, some X, some O] O X = (some 5, -1) := rfl

theorem mmv_0255 : minimaxL 1 [some X, some O, some O, none, some X, some X, some O, some X, some O] X O = (some 3, 1) := rfl

theorem mmv_0254 : minimaxL 2 [some X, some O, some O, none, some X, some X, none, some X, some O] O X = (some 3, 0) := by
  rw [minimaxL_succ 1 [some X, some O, some O, none, some X, some X, none, some X, some O] O X [3, 6] rfl rfl (List.cons_ne_nil _ _)]
  show pickBest [(3, (minimaxL 1 [some X, some O, some O, some O, some X, some X, none, some X, some O] X O).2), (6, (minimaxL 1 [some X, some O, some O, none, some X, some X, some O, some X, some O] X O).2)] O = (some 3, 0)
  rw [mmv_0242, mmv_0255]
  rfl

theorem mmv_0256 : minimaxL 2 [some X, some O, some O, none, some X, none, some X, some X, some O] O X = (some 5, -1) := rfl

theorem mmv_0252 : minimaxL 3 [some X, some O, some O, none, some X, none, none, some X, some O] X O = (some 5, 0) := by
  rw [minimaxL_succ 2 [some X, some O, some O, none, some X, none, none, some X, some O] X O [3, 5, 6] rfl rfl (List.cons_ne_nil _ _)]
  show pickBest [(3, (minimaxL 2 [some X, some O, some O, some X, some X, none, none, some X, some O] O X).2), (5, (minimaxL 2 [some X, some O, some O, none, some X, some X, none, some X, some O] O X).2), (6, (minimaxL 2 [some X, some O, some O, none, some X, none, some X, some X, some O] O X).2)] X = (some 5, 0)
  rw [mmv_0253, mmv_0254, mmv_0256]
  rfl

theorem mmv_0259 : minimaxL 1 [some X, some O, some O, some O, some X, none, some X, some X, some O] X O = (some 5, 0) := by
  rw [minimaxL_succ 0 [some X, some O, some O, some O, some X, none, some X, some X, some O] X O [5] rfl rfl (List.cons_ne_nil _ _)]
  show pickBest [(5, (minimaxL 0 [some X, some O, some O, some O, some X, some X, some X, some X, some O] O X).2)] X = (some 5, 0)
  rw [mmv_0239]
  rfl

theorem mmv_0260 : minimaxL 1 [some X, some O, none, some O, some X, some O, some X, some X, some O] X O = (some 2, 1) := rfl

theorem mmv_0258 : minimaxL 2 [some X, some O, none, some O, some X, none, some X, some X, some O] O X = (some 2, 0) := by
  rw [minimaxL_succ 1 [some X, some O, none, some O, some X, none, some X, some X, some O] O X [2, 5] rfl rfl (List.cons_ne_nil _ _)]
  show pickBest [(2, (minimaxL 1 [some X, some O, some O, some O, some X, none, some X, some X, some O] X O).2), (5, (minimaxL 1 [some X, some O, none, some O, some X, some O, some X, some X, some O] X O).2)] O = (some 2, 0)
  rw [mmv_0259, mmv_0260]
  rfl

theorem mmv_0257 : minimaxL 3 [some X, some O, none, some O, some X, none, none, some X, some O] X O = (some 6, 0) := by
  rw [minimaxL_succ 2 [some X, some O, none, some O, some X, none, none, some X, some O] X O [2, 5, 6] rfl rfl (List.cons_ne_nil _ _)]
  show pickBest [(2, (minimaxL 2 [some X, some O, some X, some O, some X, none, none, some X, some O] O X).2), (5, (minimaxL 2 [some X, some O, none, some O, some X, some X, none, some X, some O] O X).2), (6, (minimaxL 2 [some X, some O, none, some O, some X, none, some X, some X, some O] O X).2)] X = (some 6, 0)
  rw [mmv_0054, mmv_0241, mmv_0258]
  rfl

theorem mmv_0262 : minimaxL 2 [some X, some O, none, some X, some X, some O, none, some X, some O] O X = (some 2, -1) := rfl

theorem mmv_0263 : minimaxL 2 [some X, some O, none, none, some X, some O, some X, some X, some O] O X = (some 2, -1) := rfl

theorem mmv_0261 : minimaxL 3 [some X, some O, none, none, some X, some O, none, some X, some O] X O = (some 2, 0) := by
  rw [minimaxL_succ 2 [some X, some O, none, none, some X, some O, none, some X, some O] X O [2, 3, 6] rfl rfl (List.cons_ne_nil _ _)]
  show pickBest [(2, (minimaxL 2 [some X, some O, some X, none, some X, some O, none, some X, some O] O X).2), (3, (minimaxL 2 [some X, some O, none, some X, some X, some O, none, some X, some O] O X).2), (6, (minimaxL 2 [some X, some O, none, none, some X, some O, some X, some X, some O] O X).2)] X = (some 2, 0)
  rw [mmv_0119, mmv_0262, mmv_0263]
  rfl

theorem mmv_0265 : minimaxL 2 [some X, some O, none, none, some X, some X, some O, some X, some O] O X = (some 3, 0) := by
  rw [minimaxL_succ 1 [some X, some O, none, none, some X, some X, some O, some X, some O] O X [2, 3] rfl rfl (List.cons_ne_nil _ _)]
  show pickBest [(2, (minimaxL 1 [some X, some O, some O, none, some X, some X, some O, some X, some O] X O).2), (3, (minimaxL 1 [some X, some O, none, some O, some X, some X, some O, some X, some O] X O).2)] O = (some 3, 0)
  rw [mmv_0255, mmv_0243]
  rfl

theorem mmv_0264 : minimaxL 3 [some X, some O, none, none, some X, none, some O, some X, some O] X O = (some 5, 0) := by
  rw [minimaxL_succ 2 [some X, some O, none, none, some X, none, some O, some X, some O] X O [2, 3, 5] rfl rfl (List.cons_ne_nil _ _)]
  show pickBest [(2, (minimaxL 2 [some X, some O, some X, none, some X, none, some O, some X, some O] O X).2), (3, (minimaxL 2 [some X, some O, none, some X, some X, none, some O, some X, some O] O X).2), (5, (minimaxL 2 [some X, some O, none, none, some X, some X, some O, some X, some O] O X).2)] X = (some 5, 0)
  rw [mmv_0144, mmv_0212, mmv_0265]
  rfl

theorem mmv_0251 : minimaxL 4 [some X, some O, none, none, some X, none, none, some X, some O] O X = (some 2, 0) := by
  rw [minimaxL_succ 3 [some X, some O, none, none, some X, none, none, some X, some O] O X [2, 3, 5, 6] rfl rfl (List.cons_ne_nil _ _)]
  show pickBest [(2, (minimaxL 3 [some X, some O, some O, none, some X, none, none, some X, some O] X O).2), (3, (minimaxL 3 [some X, some O, none, some O, some X, none, none, some X, some O] X O).2), (5, (minimaxL 3 [some X, some O, none, none, some X, some O, none, some X, some O] X O).2), (6, (minimaxL 3 [some X, some O, none, none, some X, none, some O, some X, some O] X O).2)] O = (some 2, 0)
  rw [mmv_0252, mmv_0257, mmv_0261, mmv_0264]
  rfl

theorem mmv_0229 : minimaxL 5 [some X, some O, none, none, some X, none, none, none, some O] X O = (some 6, 1) := by
  rw [minimaxL_succ 4 [some X, some O, none, none, some X, none, none, none, some O] X O [2, 3, 5, 6, 7] rfl rfl (List.cons_ne_nil _ _)]
  show pickBest [(2, (minimaxL 4 [some X, some O, some X, none, some X, none, none, none, some O] O X).2), (3, (minimaxL 4 [some X, some O, none, some X, some X, none, none, none, some O] O X).2), (5, (minimaxL 4 [some X, some O, none, none, some X, some X, none, none, some O] O X).2), (6, (minimaxL 4 [some X, some O, none, none, some X, none, some X, none, some O] O X).2), (7, (minimaxL 4 [some X, some O, none, none, some X, none, none, some X, some O] O X).2)] X = (some 6, 1)
  rw [mmv_0166, mmv_0230, mmv_0234, mmv_0246, mmv_0251]
  rfl

theorem mmv_0223 : minimaxL 6 [some X, some O, none, none, some X, none, none, none, none] O X = (some 2, 1) := by
  rw [minimaxL_succ 5 [some X, some O, none, none, some X, none, none, none, none] O X [2, 3, 5, 6, 7, 8] rfl rfl (List.cons_ne_nil _ _)]
  show pickBest [(2, (minimaxL 5 [some X, some O, some O, none, some X, none, none, none, none] X O).2), (3, (minimaxL 5 [some X, some O, none, some O, some X, none, none, none, none] X O).2), (5, (minimaxL 5 [some X, some O, none, none, some X, some O, none, none, none] X O).2), (6, (minimaxL 5 [some X, some O, none, none, some X, none, some O, none, none] X O).2), (7, (minimaxL 5 [some X, some O, none, none, some X, none, none, some O, none] X O).2), (8, (minimaxL 5 [some X, some O, none, none, some X, none, none, none, some O] X O).2)] O = (some 2, 1)
  rw [mmv_0224, mmv_0225, mmv_0226, mmv_0227, mmv_0228, mmv_0229]
  rfl

theorem mmv_0269 : minimaxL 3 [some X, some O, some O, some X, some O, some X, none, none, none] X O = (some 6, 1) := rfl

theorem mmv_0270 : minimaxL 3 [some X, some O, some O, some X, none, some X, none, some O, none] X O = (some 6, 1) := rfl

theorem mmv_0271 : minimaxL 3 [some X, some O, some O, some X, none, some X, none, none, some O] X O = (some 6, 1) := rfl

theorem mmv_0268 : minimaxL 4 [some X, some O, some O, some X, none, some X, none, none, none] O X = (some 4, 1) := by
  rw [minimaxL_succ 3 [some X, some O, some O, some X, none, some X, none, none, none] O X [4, 6, 7, 8] rfl rfl (List.cons_ne_nil _ _)]
  show pickBest [(4, (minimaxL 3 [some X, some O, some O, some X, some O, some X, none, none, none] X O).2), (6, (minimaxL 3 [some X, some O, some O, some X, none, some X, some O, none, none] X O).2), (7, (minimaxL 3 [some X, some O, some O, some X, none, some X, none, some O, none] X O).2), (8, (minimaxL 3 [some X, some O, some O, some X, none, some X, none, none, some O] X O).2)] O = (some 4, 1)
  rw [mmv_0269, mmv_0190, mmv_0270, mmv_0271]
  rfl

theorem mmv_0273 : minimaxL 3 [some X, some O, some O, some O, some X, some X, none, none, none] X O = (some 8, 1) := rfl

theorem mmv_0274 : minimaxL 3 [some X, some O, some O, none, some X, some X, some O, none, none] X O = (some 8, 1) := rfl

theorem mmv_0275 : minimaxL 3 [some X, some O, some O, none, some X, some X, none, some O, none] X O = (some 8, 1) := rfl

theorem mmv_0272 : minimaxL 4 [some X, some O, some O, none, some X, some X, none, none, none] O X = (some 3, 1) := by
  rw [minimaxL_succ 3 [some X, some O, some O, none, some X, some X, none, none, none] O X [3, 6, 7, 8] rfl rfl (List.cons_ne_nil _ _)]
  show pickBest [(3, (minimaxL 3 [some X, some O, some O, some O, some X, some X, none, none, none] X O).2), (6, (minimaxL 3 [some X, some O, some O, none, some X, some X, some O, none, none] X O).2), (7, (minimaxL 3 [some X, some O, some O, none, some X, some X, none, some O, none] X O).2), (8, (minimaxL 3 [some X, some O, some O, none, some X, some X, none, none, some O] X O).2)] O = (some 3, 1)
  rw [mmv_0273, mmv_0274, mmv_0275, mmv_0235]
  rfl

theorem mmv_0279 : minimaxL 1 [some X, some O, some O, some O, some X, some X, some X, some O, none] X O = (some 8, 1) := rfl

theorem mmv_0278 : minimaxL 2 [some X, some O, some O, some O, some X, some X, some X, none, none] O X = (some 8, 0) := by
  rw [minimaxL_succ 1 [some X, some O, some O, some O, some X, some X, some X, none, none] O X [7, 8] rfl rfl (List.cons_ne_nil _ _)]
  show pickBest [(7, (minimaxL 1 [some X, some O, some O, some O, some X, some X, some X, some O, none] X O).2), (8, (minimaxL 1 [some X, some O, some O, some O, some X, some X, some X, none, some O] X O).2)] O = (some 8, 0)
  rw [mmv_0279, mmv_0238]
  rfl

theorem mmv_0281 : minimaxL 1 [some X, some O, some O, some O, some O, some X, some X, some X, none] X O = (some 8, 1) := rfl

theorem mmv_0282 : minimaxL 1 [some X, some O, some O, some O, none, some X, some X, some X, some O] X O = (some 4, 0) := by
  rw [minimaxL_succ 0 [some X, some O, some O, some O, none, some X, some X, some X, some O] X O [4] rfl rfl (List.cons_ne_nil _ _)]
  show pickBest [(4, (minimaxL 0 [some X, some O, some O, some O, some X, some X, some X, some X, some O] O X).2)] X = (some 4, 0)
  rw [mmv_0239]
  rfl

theorem mmv_0280 : minimaxL 2 [some X, some O, some O, some O, none, some X, some X, some X, none] O X = (some 8, 0) := by
  rw [minimaxL_succ 1 [some X, some O, some O, some O, none, some X, some X, some X, none] O X [4, 8] rfl rfl (List.cons_ne_nil _ _)]
  show pickBest [(4, (minimaxL 1 [some X, some O, some O, some O, some O, some X, some X, some X, none] X O).2), (8, (minimaxL 1 [some X, some O, some O, some O, none, some X, some X, some X, some O] X O).2)] O = (some 8, 0)
  rw [mmv_0281, mmv_0282]
  rfl

theorem mmv_0284 : minimaxL 1 [some X, some O, some O, some O, some O, some X, some X, none, some X] X O = (some 7, 1) := rfl

theorem mmv_0285 : minimaxL 1 [some X, some O, some O, some O, none, some X, some X, some O, some X] X O = (some 4, 1) := rfl

theorem mmv_0283 : minimaxL 2 [some X, some O, some O, some O, none, some X, some X, none, some X] O X = (some 4, 1) := by
  rw [minimaxL_succ 1 [some X, some O, some O, some O, none, some X, some X, none, some X] O X [4, 7] rfl rfl (List.cons_ne_nil _ _)]
  show pickBest [(4, (minimaxL 1 [some X, some O, some O, some O, some O, some X, some X, none, some X] X O).2), (7, (minimaxL 1 [some X, some O, some O, some O, none, some X, some X, some O, some X] X O).2)] O = (some 4, 1)
  rw [mmv_0284, mmv_0285]
  rfl

theorem mmv_0277 : minimaxL 3 [some X, some O, some O, some O, none, some X, some X, none, none] X O = (some 8, 1) := by
  rw [minimaxL_succ 2 [some X, some O, some O, some O, none, some X, some X, none, none] X O [4, 7, 8] rfl rfl (List.cons_ne_nil _ _)]
  show pickBest [(4, (minimaxL 2 [some X, some O, some O, some O, some X, some X, some X, none, none] O X).2), (7, (minimaxL 2 [some X, some O, some O, some O, none, some X, some X, some X, none] O X).2), (8, (minimaxL 2 [some X, some O, some O, some O, none, some X, some X, none, some X] O X).2)] X = (some 8, 1)
  rw [mmv_0278, mmv_0280, mmv_0283]
  rfl

theorem mmv_0286 : minimaxL 3 [some X, some O, some O, none, some O, some X, some X, none, none] X O = (some 3, 1) := rfl

theorem mmv_0287 : minimaxL 3 [some X, some O, some O, none, none, some X, some X, some O, none] X O = (some 3, 1) := rfl

theorem mmv_0288 : minimaxL 3 [some X, some O, some O, none, none, some X, some X, none, some O] X O = (some 3, 1) := rfl

theorem mmv_0276 : minimaxL 4 [some X, some O, some O, none, none, some X, some X, none, none] O X = (some 3, 1) := by
  rw [minimaxL_succ 3 [some X, some O, some O, none, none, some X, some X, none, none] O X [3, 4, 7, 8] rfl rfl (List.cons_ne_nil _ _)]
  show pickBest [(3, (minimaxL 3 [some X, some O, some O, some O, none, some X, some X, none, none] X O).2), (4, (minimaxL 3 [some X, some O, some O, none, some O, some X, some X, none, none] X O).2), (7, (minimaxL 3 [some X, some O, some O, none, none, some X, some X, some O, none] X O).2), (8, (minimaxL 3 [some X, some O, some O, none, none, some X, some X, none, some O] X O).2)] O = (some 3, 1)
  rw [mmv_0277, mmv_0286, mmv_0287, mmv_0288]
  rfl

theorem mmv_0292 : minimaxL 1 [some X, some O, some O, some O, some X, some X, some O, some X, none] X O = (some 8, 1) := rfl

theorem mmv_0291 : minimaxL 2 [some X, some O, some O, some O, some X, some X, none, some X, none] O X = (some 8, 0) := by
  rw [minimaxL_succ 1 [some X, some O, some O, some O, some X, some X, none, some X, none] O X [6, 8] rfl rfl (List.cons_ne_nil _ _)]
  show pickBest [(6, (minimaxL 1 [some X, some O, some O, some O, some X, some X, some O, some X, none] X O).2), (8, (minimaxL 1 [some X, some O, some O, some O, some X, some X, none, some X, some O] X O).2)] O = (some 8, 0)
  rw [mmv_0292, mmv_0242]
  rfl

theorem mmv_0294 : minimaxL 1 [some X, some O, some O, some O, some O, some X, none, some X, some X] X O = (some 6, 1) := rfl

theorem mmv_0295 : minimaxL 1 [some X, some O, some O, some O, none, some X, some O, some X, some X] X O = (some 4, 1) := rfl

theorem mmv_0293 : minimaxL 2 [some X, some O, some O, some O, none, some X, none, some X, some X] O X = (some 4, 1) := by
  rw [minimaxL_succ 1 [some X, some O, some O, some O, none, some X, none, some X, some X] O X [4, 6] rfl rfl (List.cons_ne_nil _ _)]
  show pickBest [(4, (minimaxL 1 [some X, some O, some O, some O, some O, some X, none, some X, some X] X O).2), (6, (minimaxL 1 [some X, some O, some O, some O, none, some X, some O, some X, some X] X O).2)] O = (some 4, 1)
  rw [mmv_0294, mmv_0295]
  rfl

theorem mmv_0290 : minimaxL 3 [some X, some O, some O, some O, none, some X, none, some X, none] X O = (some 8, 1) := by
  rw [minimaxL_succ 2 [some X, some O, some O, some O, none, some X, none, some X, none] X O [4, 6, 8] rfl rfl (List.cons_ne_nil _ _)]
  show pickBest [(4, (minimaxL 2 [some X, some O, some O, some O, some X, some X, none, some X, none] O X).2), (6, (minimaxL 2 [some X, some O, some O, some O, none, some X, some X, some X, none] O X).2), (8, (minimaxL 2 [some X, some O, some O, some O, none, some X, none, some X, some X] O X).2)] X = (some 8, 1)
  rw [mmv_0291, mmv_0280, mmv_0293]
  rfl

theorem mmv_0297 : minimaxL 2 [some X, some O, some O, some X, some O, some X, none, some X, none] O X = (some 6, -1) := rfl

theorem mmv_0299 : minimaxL 1 [some X, some O, some O, none, some O, some X, some X, some X, some O] X O = (some 3, 1) := rfl

theorem mmv_0298 : minimaxL 2 [some X, some O, some O, none, some O, some X, some X, some X, none] O X = (some 3, 1) := by
  rw [minimaxL_succ 1 [some X, some O, some O, none, some O, some X, some X, some X, none] O X [3, 8] rfl rfl (List.cons_ne_nil _ _)]
  show pickBest [(3, (minimaxL 1 [some X, some O, some O, some O, some O, some X, some X, some X, none] X O).2), (8, (minimaxL 1 [some X, some O, some O, none, some O, some X, some X, some X, some O] X O).2)] O = (some 3, 1)
  rw [mmv_0281, mmv_0299]
  rfl

theorem mmv_0300 : minimaxL 2 [some X, some O, some O, none, some O, some X, none, some X, some X] O X = (some 6, -1) := rfl

theorem mmv_0296 : minimaxL 3 [some X, some O, some O, none, some O, some X, none, some X, none] X O = (some 6, 1) := by
  rw [minimaxL_succ 2 [some X, some O, some O, none, some O, some X, none, some X, none] X O [3, 6, 8] rfl rfl (List.cons_ne_nil _ _)]
  show pickBest [(3, (minimaxL 2 [some X, some O, some O, some X, some O, some X, none, some X, none] O X).2), (6, (minimaxL 2 [some X, some O, some O, none, some O, some X, some X, some X, none] O X).2), (8, (minimaxL 2 [some X, some O, some O, none, some O, some X, none, some X, some X] O X).2)] X = (some 6, 1)
  rw [mmv_0297, mmv_0298, mmv_0300]
  rfl

theorem mmv_0302 : minimaxL 2 [some X, some O, some O, none, some X, some X, some O, some X, none] O X = (some 3, 1) := by
  rw [minimaxL_succ 1 [some X, some O, some O, none, some X, some X, some O, some X, none] O X [3, 8] rfl rfl (List.cons_ne_nil _ _)]
  show pickBest [(3, (minimaxL 1 [some X, some O, some O, some O, some X, some X, some O, some X, none] X O).2), (8, (minimaxL 1 [some X, some O, some O, none, some X, some X, some O, some X, some O] X O).2)] O = (some 3, 1)
  rw [mmv_0292, mmv_0255]
  rfl

theorem mmv_0303 : minimaxL 2 [some X, some O, some O, none, none, some X, some O, some X, some X] O X = (some 4, -1) := rfl

theorem mmv_0301 : minimaxL 3 [some X, some O, some O, none, none, some X, some O, some X, none] X O = (some 4, 1) := by
  rw [minimaxL_succ 2 [some X, some O, some O, none, none, some X, some O, some X, none] X O [3, 4, 8] rfl rfl (List.cons_ne_nil _ _)]
  show pickBest [(3, (minimaxL 2 [some X, some O, some O, some X, none, some X, some O, some X, none] O X).2), (4, (minimaxL 2 [some X, some O, some O, none, some X, some X, some O, some X, none] O X).2), (8, (minimaxL 2 [some X, some O, some O, none, none, some X, some O, some X, some X] O X).2)] X = (some 4, 1)
  rw [mmv_0201, mmv_0302, mmv_0303]
  rfl

theorem mmv_0306 : minimaxL 1 [some X, some O, some O, some X, some O, some X, none, some X, some O] X O = (some 6, 1) := rfl

theorem mmv_0305 : minimaxL 2 [some X, some O, some O, some X, none, some X, none, some X, some O] O X = (some 4, 1) := by
  rw [minimaxL_succ 1 [some X, some O, some O, some X, none, some X, none, some X, some O] O X [4, 6] rfl rfl (List.cons_ne_nil _ _)]
  show pickBest [(4, (minimaxL 1 [some X, some O, some O, some X, some O, some X, none, some X, some O] X O).2), (6, (minimaxL 1 [some X, some O, some O, some X, none, some X, some O, some X, some O] X O).2)] O = (some 4, 1)
  rw [mmv_0306, mmv_0214]
  rfl

theorem mmv_0307 : minimaxL 2 [some X, some O, some O, none, none, some X, some X, some X, some O] O X = (some 3, 0) := by
  rw [minimaxL_succ 1 [some X, some O, some O, none, none, some X, some X, some X, some O] O X [3, 4] rfl rfl (List.cons_ne_nil _ _)]
  show pickBest [(3, (minimaxL 1 [some X, some O, some O, some O, none, some X, some X, some X, some O] X O).2), (4, (minimaxL 1 [some X, some O, some O, none, some O, some X, some X, some X, some O] X O).2)] O = (some 3, 0)
  rw [mmv_0282, mmv_0299]
  rfl

theorem mmv_0304 : minimaxL 3 [some X, some O, some O, none, none, some X, none, some X, some O] X O = (some 3, 1) := by
  rw [minimaxL_succ 2 [some X, some O, some O, none, none, some X, none, some X, some O] X O [3, 4, 6] rfl rfl (List.cons_ne_nil _ _)]
  show pickBest [(3, (minimaxL 2 [some X, some O, some O, some X, none, some X, none, some X, some O] O X).2), (4, (minimaxL 2 [some X, some O, some O, none, some X, some X, none, some X, some O] O X).2), (6, (minimaxL 2 [some X, some O, some O, none, none, some X, some X, some X, some O] O X).2)] X = (some 3, 1)
  rw [mmv_0305, mmv_0254, mmv_0307]
  rfl

theorem mmv_0289 : minimaxL 4 [some X, some O, some O, none, none, some X, none, some X, none] O X = (some 3, 1) := by
  rw [minimaxL_succ 3 [some X, some O, some O, none, none, some X, none, some X, none] O X [3, 4, 6, 8] rfl rfl (List.cons_ne_nil _ _)]
  show pickBest [(3, (minimaxL 3 [some X, some O, some O, some O, none, some X, none, some X, none] X O).2), (4, (minimaxL 3 [some X, some O, some O, none, some O, some X, none, some X, none] X O).2), (6, (minimaxL 3 [some X, some O, some O, none, none, some X, some O, some X, none] X O).2), (8, (minimaxL 3 [some X, some O, some O, none, none, some X, none, some X, some O] X O).2)] O = (some 3, 1)
  rw [mmv_0290, mmv_0296, mmv_0301, mmv_0304]
  rfl

theorem mmv_0309 : minimaxL 3 [some X, some O, some O, some O, none, some X, none, none, some X] X O = (some 4, 1) := rfl

theorem mmv_0311 : minimaxL 2 [some X, some O, some O, some X, some O, some X, none, none, some X] O X = (some 7, -1) := rfl

theorem mmv_0312 : minimaxL 2 [some X, some O, some O, none, some O, some X, some X, none, some X] O X = (some 7, -1) := rfl

theorem mmv_0310 : minimaxL 3 [some X, some O, some O, none, some O, some X, none, none, some X] X O = (some 7, -1) := by
  rw [minimaxL_succ 2 [some X, some O, some O, none, some O, some X, none, none, some X] X O [3, 6, 7] rfl rfl (List.cons_ne_nil _ _)]
  show pickBest [(3, (minimaxL 2 [some X, some O, some O, some X, some O, some X, none, none, some X] O X).2), (6, (minimaxL 2 [some X, some O, some O, none, some O, some X, some X, none, some X] O X).2), (7, (minimaxL 2 [some X, some O, some O, none, some O, some X, none, some X, some X] O X).2)] X = (some 7, -1)
  rw [mmv_0311, mmv_0312, mmv_0300]
  rfl

theorem mmv_0313 : minimaxL 3 [some X, some O, some O, none, none, some X, some O, none, some X] X O = (some 4, 1) := rfl

theorem mmv_0314 : minimaxL 3 [some X, some O, some O, none, none, some X, none, some O, some X] X O = (some 4, 1) := rfl

theorem mmv_0308 : minimaxL 4 [some X, some O, some O, none, none, some X, none, none, some X] O X = (some 4, -1) := by
  rw [minimaxL_succ 3 [some X, some O, some O, none, none, some X, none, none, some X] O X [3, 4, 6, 7] rfl rfl (List.cons_ne_nil _ _)]
  show pickBest [(3, (minimaxL 3 [some X, some O, some O, some O, none, some X, none, none, some X] X O).2), (4, (minimaxL 3 [some X, some O, some O, none, some O, some X, none, none, some X] X O).2), (6, (minimaxL 3 [some X, some O, some O, none, none, some X, some O, none, some X] X O).2), (7, (minimaxL 3 [some X, some O, some O, none, none, some X, none, some O, some X] X O).2)] O = (some 4, -1)
  rw [mmv_0309, mmv_0310, mmv_0313, mmv_0314]
  rfl

theorem mmv_0267 : minimaxL 5 [some X, some O, some O, none, none, some X, none, none, none] X O = (some 7, 1) := by
  rw [minimaxL_succ 4 [some X, some O, some O, none, none, some X, none, none, none] X O [3, 4, 6, 7, 8] rfl rfl (List.cons_ne_nil _ _)]
  show pickBest [(3, (minimaxL 4 [some X, some O, some O, some X, none, some X, none, none, none] O X).2), (4, (minimaxL 4 [some X, some O, some O, none, some X, some X, none, none, none] O X).2), (6, (minimaxL 4 [some X, some O, some O, none, none, some X, some X, none, none] O X).2), (7, (minimaxL 4 [some X, some O, some O, none, none, some X, none, some X, none] O X).2), (8, (minimaxL 4 [some X, some O, some O, none, none, some X, none, none, some X] O X).2)] X = (some 7, 1)
  rw [mmv_0268, mmv_0272, mmv_0276, mmv_0289, mmv_0308]
  rfl

theorem mmv_0317 : minimaxL 3 [some X, some O, none, some O, some X, some X, some O, none, none] X O = (some 8, 1) := rfl

theorem mmv_0318 : minimaxL 3 [some X, some O, none, some O, some X, some X, none, some O, none] X O = (some 8, 1) := rfl

theorem mmv_0316 : minimaxL 4 [some X, some O, none, some O, some X, some X, none, none, none] O X = (some 8, 0) := by
  rw [minimaxL_succ 3 [some X, some O, none, some O, some X, some X, none, none, none] O X [2, 6, 7, 8] rfl rfl (List.cons_ne_nil _ _)]
  show pickBest [(2, (minimaxL 3 [some X, some O, some O, some O, some X, some X, none, none, none] X O).2), (6, (minimaxL 3 [some X, some O, none, some O, some X, some X, some O, none, none] X O).2), (7, (minimaxL 3 [some X, some O, none, some O, some X, some X, none, some O, none] X O).2), (8, (minimaxL 3 [some X, some O, none, some O, some X, some X, none, none, some O] X O).2)] O = (some 8, 0)
  rw [mmv_0273, mmv_0317, mmv_0318, mmv_0236]
  rfl

theorem mmv_0322 : minimaxL 1 [some X, some O, none, some O, some O, some X, some X, some X, some O] X O = (some 2, 0) := by
  rw [minimaxL_succ 0 [some X, some O, none, some O, some O, some X, some X, some X, some O] X O [2] rfl rfl (List.cons_ne_nil _ _)]
  show pickBest [(2, (minimaxL 0 [some X, some O, some X, some O, some O, some X, some X, some X, some O] O X).2)] X = (some 2, 0)
  rw [mmv_0022]
  rfl

theorem mmv_0321 : minimaxL 2 [some X, some O, none, some O, some O, some X, some X, some X, none] O X = (some 8, 0) := by
  rw [minimaxL_succ 1 [some X, some O, none, some O, some O, some X, some X, some X, none] O X [2, 8] rfl rfl (List.cons_ne_nil _ _)]
  show pickBest [(2, (minimaxL 1 [some X, some O, some O, some O, some O, some X, some X, some X, none] X O).2), (8, (minimaxL 1 [some X, some O, none, some O, some O, some X, some X, some X, some O] X O).2)] O = (some 8, 0)
  rw [mmv_0281, mmv_0322]
  rfl

theorem mmv_0323 : minimaxL 2 [some X, some O, none, some O, some O, some X, some X, none, some X] O X = (some 7, -1) := rfl

theorem mmv_0320 : minimaxL 3 [some X, some O, none, some O, some O, some X, some X, none, none] X O = (some 7, 0) := by
  rw [minimaxL_succ 2 [some X, some O, none, some O, some O, some X, some X, none, none] X O [2, 7, 8] rfl rfl (List.cons_ne_nil _ _)]
  show pickBest [(2, (minimaxL 2 [some X, some O, some X, some O, some O, some X, some X, none, none] O X).2), (7, (minimaxL 2 [some X, some O, none, some O, some O, some X, some X, some X, none] O X).2), (8, (minimaxL 2 [some X, some O, none, some O, some O, some X, some X, none, some X] O X).2)] X = (some 7, 0)
  rw [mmv_0029, mmv_0321, mmv_0323]
  rfl

theorem mmv_0325 : minimaxL 2 [some X, some O, some X, some O, none, some X, some X, some O, none] O X = (some 4, -1) := rfl

theorem mmv_0326 : minimaxL 2 [some X, some O, none, some O, some X, some X, some X, some O, none] O X = (some 2, 1) := by
  rw [minimaxL_succ 1 [some X, some O, none, some O, some X, some X, some X, some O, none] O X [2, 8] rfl rfl (List.cons_ne_nil _ _)]
  show pickBest [(2, (minimaxL 1 [some X, some O, some O, some O, some X, some X, some X, some O, none] X O).2), (8, (minimaxL 1 [some X, some O, none, some O, some X, some X, some X, some O, some O] X O).2)] O = (some 2, 1)
  rw [mmv_0279, mmv_0240]
  rfl

theorem mmv_0327 : minimaxL 2 [some X, some O, none, some O, none, some X, some X, some O, some X] O X = (some 4, -1) := rfl

theorem mmv_0324 : minimaxL 3 [some X, some O, none, some O, none, some X, some X, some O, none] X O = (some 4, 1) := by
  rw [minimaxL_succ 2 [some X, some O, none, some O, none, some X, some X, some O, none] X O [2, 4, 8] rfl rfl (List.cons_ne_nil _ _)]
  show pickBest [(2, (minimaxL 2 [some X, some O, some X, some O, none, some X, some X, some O, none] O X).2), (4, (minimaxL 2 [some X, some O, none, some O, some X, some X, some X, some O, none] O X).2), (8, (minimaxL 2 [some X, some O, none, some O, none, some X, some X, some O, some X] O X).2)] X = (some 4, 1)
  rw [mmv_0325, mmv_0326, mmv_0327]
  rfl

theorem mmv_0329 : minimaxL 2 [some X, some O, none, some O, none, some X, some X, some X, some O] O X = (some 2, 0) := by
  rw [minimaxL_succ 1 [some X, some O, none, some O, none, some X, some X, some X, some O] O X [2, 4] rfl rfl (List.cons_ne_nil _ _)]
  show pickBest [(2, (minimaxL 1 [some X, some O, some O, some O, none, some X, some X, some X, some O] X O).2), (4, (minimaxL 1 [some X, some O, none, some O, some O, some X, some X, some X, some O] X O).2)] O = (some 2, 0)
  rw [mmv_0282, mmv_0322]
  rfl

theorem mmv_0328 : minimaxL 3 [some X, some O, none, some O, none, some X, some X, none, some O] X O = (some 7, 0) := by
  rw [minimaxL_succ 2 [some X, some O, none, some O, none, some X, some X, none, some O] X O [2, 4, 7] rfl rfl (List.cons_ne_nil _ _)]
  show pickBest [(2, (minimaxL 2 [some X, some O, some X, some O, none, some X, some X, none, some O] O X).2), (4, (minimaxL 2 [some X, some O, none, some O, some X, some X, some X, none, some O] O X).2), (7, (minimaxL 2 [some X, some O, none, some O, none, some X, some X, some X, some O] O X).2)] X = (some 7, 0)
  rw [mmv_0020, mmv_0237, mmv_0329]
  rfl

theorem mmv_0319 : minimaxL 4 [some X, some O, none, some O, none, some X, some X, none, none] O X = (some 4, 0) := by
  rw [minimaxL_succ 3 [some X, some O, none, some O, none, some X, some X, none, none] O X [2, 4, 7, 8] rfl rfl (List.cons_ne_nil _ _)]
  show pickBest [(2, (minimaxL 3 [some X, some O, some O, some O, none, some X, some X, none, none] X O).2), (4, (minimaxL 3 [some X, some O, none, some O, some O, some X, some X, none, none] X O).2), (7, (minimaxL 3 [some X, some O, none, some O, none, some X, some X, some O, none] X O).2), (8, (minimaxL 3 [some X, some O, none, some O, none, some X, some X, none, some O] X O).2)] O = (some 4, 0)
  rw [mmv_0277, mmv_0320, mmv_0324, mmv_0328]
  rfl

theorem mmv_0333 : minimaxL 1 [some X, some O, none, some O, some O, some X, some O, some X, some X] X O = (some 2, 1) := rfl

theorem mmv_0332 : minimaxL 2 [some X, some O, none, some O, some O, some X, none, some X, some X] O X = (some 2, 1) := by
  rw [minimaxL_succ 1 [some X, some O, none, some O, some O, some X, none, some X, some X] O X [2, 6] rfl rfl (List.cons_ne_nil _ _)]
  show pickBest [(2, (minimaxL 1 [some X, some O, some O, some O, some O, some X, none, some X, some X] X O).2), (6, (minimaxL 1 [some X, some O, none, some O, some O, some X, some O, some X, some X] X O).2)] O = (some 2, 1)
  rw [mmv_0294, mmv_0333]
  rfl

theorem mmv_0331 : minimaxL 3 [some X, some O, none, some O, some O, some X, none, some X, none] X O = (some 8, 1) := by
  rw [minimaxL_succ 2 [some X, some O, none, some O, some O, some X, none, some X, none] X O [2, 6, 8] rfl rfl (List.cons_ne_nil _ _)]
  show pickBest [(2, (minimaxL 2 [some X, some O, some X, some O, some O, some X, none, some X, none] O X).2), (6, (minimaxL 2 [some X, some O, none, some O, some O, some X, some X, some X, none] O X).2), (8, (minimaxL 2 [some X, some O, none, some O, some O, some X, none, some X, some X] O X).2)] X = (some 8, 1)
  rw [mmv_0037, mmv_0321, mmv_0332]
  rfl

theorem mmv_0335 : minimaxL 2 [some X, some O, none, some O, some X, some X, some O, some X, none] O X = (some 8, 0) := by
  rw [minimaxL_succ 1 [some X, some O, none, some O, some X, some X, some O, some X, none] O X [2, 8] rfl rfl (List.cons_ne_nil _ _)]
  show pickBest [(2, (minimaxL 1 [some X, some O, some O, some O, some X, some X, some O, some X, none] X O).2), (8, (minimaxL 1 [some X, some O, none, some O, some X, some X, some O, some X, some O] X O).2)] O = (some 8, 0)
  rw [mmv_0292, mmv_0243]
  rfl

theorem mmv_0336 : minimaxL 2 [some X, some O, none, some O, none, some X, some O, some X, some X] O X = (some 2, 1) := by
  rw [minimaxL_succ 1 [some X, some O, none, some O, none, some X, some O, some X, some X] O X [2, 4] rfl rfl (List.cons_ne_nil _ _)]
  show pickBest [(2, (minimaxL 1 [some X, some O, some O, some O, none, some X, some O, some X, some X] X O).2), (4, (minimaxL 1 [some X, some O, none, some O, some O, some X, some O, some X, some X] X O).2)] O = (some 2, 1)
  rw [mmv_0295, mmv_0333]
  rfl

theorem mmv_0334 : minimaxL 3 [some X, some O, none, some O, none, some X, some O, some X, none] X O = (some 8, 1) := by
  rw [minimaxL_succ 2 [some X, some O, none, some O, none, some X, some O, some X, none] X O [2, 4, 8] rfl rfl (List.cons_ne_nil _ _)]
  show pickBest [(2, (minimaxL 2 [some X, some O, some X, some O, none, some X, some O, some X, none] O X).2), (4, (minimaxL 2 [some X, some O, none, some O, some X, some X, some O, some X, none] O X).2), (8, (minimaxL 2 [some X, some O, none, some O, none, some X, some O, some X, some X] O X).2)] X = (some 8, 1)
  rw [mmv_0049, mmv_0335, mmv_0336]
  rfl

theorem mmv_0337 : minimaxL 3 [some X, some O, none, some O, none, some X, none, some X, some O] X O = (some 6, 0) := by
  rw [minimaxL_succ 2 [some X, some O, none, some O, none, some X, none, some X, some O] X O [2, 4, 6] rfl rfl (List.cons_ne_nil _ _)]
  show pickBest [(2, (minimaxL 2 [some X, some O, some X, some O, none, some X, none, some X, some O] O X).2), (4, (minimaxL 2 [some X, some O, none, some O, some X, some X, none, some X, some O] O X).2), (6, (minimaxL 2 [some X, some O, none, some O, none, some X, some X, some X, some O] O X).2)] X = (some 6, 0)
  rw [mmv_0024, mmv_0241, mmv_0329]
  rfl

theorem mmv_0330 : minimaxL 4 [some X, some O, none, some O, none, some X, none, some X, none] O X = (some 8, 0) := by
  rw [minimaxL_succ 3 [some X, some O, none, some O, none, some X, none, some X, none] O X [2, 4, 6, 8] rfl rfl (List.cons_ne_nil _ _)]
  show pickBest [(2, (minimaxL 3 [some X, some O, some O, some O, none, some X, none, some X, none] X O).2), (4, (minimaxL 3 [some X, some O, none, some O, some O, some X, none, some X, none] X O).2), (6, (minimaxL 3 [some X, some O, none, some O, none, some X, some O, some X, none] X O).2), (8, (minimaxL 3 [some X, some O, none, some O, none, some X, none, some X, some O] X O).2)] O = (some 8, 0)
  rw [mmv_0290, mmv_0331, mmv_0334, mmv_0337]
  rfl

theorem mmv_0339 : minimaxL 3 [some X, some O, none, some O, some O, some X, none, none, some X] X O = (some 2, 1) := rfl

theorem mmv_0340 : minimaxL 3 [some X, some O, none, some O, none, some X, some O, none, some X] X O = (some 4, 1) := rfl

theorem mmv_0341 : minimaxL 3 [some X, some O, none, some O, none, some X, none, some O, some X] X O = (some 4, 1) := rfl

theorem mmv_0338 : minimaxL 4 [some X, some O, none, some O, none, some X, none, none, some X] O X = (some 2, 1) := by
  rw [minimaxL_succ 3 [some X, some O, none, some O, none, some X, none, none, some X] O X [2, 4, 6, 7] rfl rfl (List.cons_ne_nil _ _)]
  show pickBest [(2, (minimaxL 3 [some X, some O, some O, some O, none, some X, none, none, some X] X O).2), (4, (minimaxL 3 [some X, some O, none, some O, some O, some X, none, none, some X] X O).2), (6, (minimaxL 3 [some X, some O, none, some O, none, some X, some O, none, some X] X O).2), (7, (minimaxL 3 [some X, some O, none, some O, none, some X, none, some O, some X] X O).2)] O = (some 2, 1)
  rw [mmv_0309, mmv_0339, mmv_0340, mmv_0341]
  rfl

theorem mmv_0315 : minimaxL 5 [some X, some O, none, some O, none, some X, none, none, none] X O = (some 8, 1) := by
  rw [minimaxL_succ 4 [some X, some O, none, some O, none, some X, none, none, none] X O [2, 4, 6, 7, 8] rfl rfl (List.cons_ne_nil _ _)]
  show pickBest [(2, (minimaxL 4 [some X, some O, some X, some O, none, some X, none, none, none] O X).2), (4, (minimaxL 4 [some X, some O, none, some O, some X, some X, none, none, none] O X).2), (6, (minimaxL 4 [some X, some O, none, some O, none, some X, some X, none, none] O X).2), (7, (minimaxL 4 [some X, some O, none, some O, none, some X, none, some X, none] O X).2), (8, (minimaxL 4 [some X, some O, none, some O, none, some X, none, none, some X] O X).2)] X = (some 8, 1)
  rw [mmv_0011, mmv_0316, mmv_0319, mmv_0330, mmv_0338]
  rfl

theorem mmv_0343 : minimaxL 4 [some X, some O, none, some X, some O, some X, none, none, none] O X = (some 7, -1) := rfl

theorem mmv_0344 : minimaxL 4 [some X, some O, none, none, some O, some X, some X, none, none] O X = (some 7, -1) := rfl

theorem mmv_0347 : minimaxL 2 [some X, some O, none, none, some O, some X, some O, some X, some X] O X = (some 2, -1) := rfl

theorem mmv_0346 : minimaxL 3 [some X, some O, none, none, some O, some X, some O, some X, none] X O = (some 2, 0) := by
  rw [minimaxL_succ 2 [some X, some O, none, none, some O, some X, some O, some X, none] X O [2, 3, 8] rfl rfl (List.cons_ne_nil _ _)]
  show pickBest [(2, (minimaxL 2 [some X, some O, some X, none, some O, some X, some O, some X, none] O X).2), (3, (minimaxL 2 [some X, some O, none, some X, some O, some X, some O, some X, none] O X).2), (8, (minimaxL 2 [some X, some O, none, none, some O, some X, some O, some X, some X] O X).2)] X = (some 2, 0)
  rw [mmv_0079, mmv_0192, mmv_0347]
  rfl

theorem mmv_0349 : minimaxL 2 [some X, some O, none, some X, some O, some X, none, some X, some O] O X = (some 6, 0) := by
  rw [minimaxL_succ 1 [some X, some O, none, some X, some O, some X, none, some X, some O] O X [2, 6] rfl rfl (List.cons_ne_nil _ _)]
  show pickBest [(2, (minimaxL 1 [some X, some O, some O, some X, some O, some X, none, some X, some O] X O).2), (6, (minimaxL 1 [some X, some O, none, some X, some O, some X, some O, some X, some O] X O).2)] O = (some 6, 0)
  rw [mmv_0306, mmv_0215]
  rfl

theorem mmv_0350 : minimaxL 2 [some X, some O, none, none, some O, some X, some X, some X, some O] O X = (some 3, 0) := by
  rw [minimaxL_succ 1 [some X, some O, none, none, some O, some X, some X, some X, some O] O X [2, 3] rfl rfl (List.cons_ne_nil _ _)]
  show pickBest [(2, (minimaxL 1 [some X, some O, some O, none, some O, some X, some X, some X, some O] X O).2), (3, (minimaxL 1 [some X, some O, none, some O, some O, some X, some X, some X, some O] X O).2)] O = (some 3, 0)
  rw [mmv_0299, mmv_0322]
  rfl

theorem mmv_0348 : minimaxL 3 [some X, some O, none, none, some O, some X, none, some X, some O] X O = (some 6, 0) := by
  rw [minimaxL_succ 2 [some X, some O, none, none, some O, some X, none, some X, some O] X O [2, 3, 6] rfl rfl (List.cons_ne_nil _ _)]
  show pickBest [(2, (minimaxL 2 [some X, some O, some X, none, some O, some X, none, some X, some O] O X).2), (3, (minimaxL 2 [some X, some O, none, some X, some O, some X, none, some X, some O] O X).2), (6, (minimaxL 2 [some X, some O, none, none, some O, some X, some X, some X, some O] O X).2)] X = (some 6, 0)
  rw [mmv_0085, mmv_0349, mmv_0350]
  rfl

theorem mmv_0345 : minimaxL 4 [some X, some O, none, none, some O, some X, none, some X, none] O X = (some 6, 0) := by
  rw [minimaxL_succ 3 [some X, some O, none, none, some O, some X, none, some X, none] O X [2, 3, 6, 8] rfl rfl (List.cons_ne_nil _ _)]
  show pickBest [(2, (minimaxL 3 [some X, some O, some O, none, some O, some X, none, some X, none] X O).2), (3, (minimaxL 3 [some X, some O, none, some O, some O, some X, none, some X, none] X O).2), (6, (minimaxL 3 [some X, some O, none, none, some O, some X, some O, some X, none] X O).2), (8, (minimaxL 3 [some X, some O, none, none, some O, some X, none, some X, some O] X O).2)] O = (some 6, 0)
  rw [mmv_0296, mmv_0331, mmv_0346, mmv_0348]
  rfl

theorem mmv_0351 : minimaxL 4 [some X, some O, none, none, some O, some X, none, none, some X] O X = (some 7, -1) := rfl

theorem mmv_0342 : minimaxL 5 [some X, some O, none, none, some O, some X, none, none, none] X O = (some 7, 0) := by
  rw [minimaxL_succ 4 [some X, some O, none, none, some O, some X, none, none, none] X O [2, 3, 6, 7, 8] rfl rfl (List.cons_ne_nil _ _)]
  show pickBest [(2, (minimaxL 4 [some X, some O, some X, none, some O, some X, none, none, none] O X).2), (3, (minimaxL 4 [some X, some O, none, some X, some O, some X, none, none, none] O X).2), (6, (minimaxL 4 [some X, some O, none, none, some O, some X, some X, none, none] O X).2), (7, (minimaxL 4 [some X, some O, none, none, some O, some X, none, some X, none] O X).2), (8, (minimaxL 4 [some X, some O, none, none, some O, some X, none, none, some X] O X).2)] X = (some 7, 0)
  rw [mmv_0065, mmv_0343, mmv_0344, mmv_0345, mmv_0351]
  rfl

theorem mmv_0354 : minimaxL 3 [some X, some O, none, none, some X, some X, some O, some O, none] X O = (some 8, 1) := rfl

theorem mmv_0353 : minimaxL 4 [some X, some O, none, none, some X, some X, some O, none, none] O X = (some 2, 1) := by
  rw [minimaxL_succ 3 [some X, some O, none, none, some X, some X, some O, none, none] O X [2, 3, 7, 8] rfl rfl (List.cons_ne_nil _ _)]
  show pickBest [(2, (minimaxL 3 [some X, some O, some O, none, some X, some X, some O, none, none] X O).2), (3, (minimaxL 3 [some X, some O, none, some O, some X, some X, some O, none, none] X O).2), (7, (minimaxL 3 [some X, some O, none, none, some X, some X, some O, some O, none] X O).2), (8, (minimaxL 3 [some X, some O, none, none, some X, some X, some O, none, some O] X O).2)] O = (some 2, 1)
  rw [mmv_0274, mmv_0317, mmv_0354, mmv_0244]
  rfl

theorem mmv_0356 : minimaxL 3 [some X, some O, none, none, none, some X, some O, some X, some O] X O = (some 4, 0) := by
  rw [minimaxL_succ 2 [some X, some O, none, none, none, some X, some O, some X, some O] X O [2, 3, 4] rfl rfl (List.cons_ne_nil _ _)]
  show pickBest [(2, (minimaxL 2 [some X, some O, some X, none, none, some X, some O, some X, some O] O X).2), (3, (minimaxL 2 [some X, some O, none, some X, none, some X, some O, some X, some O] O X).2), (4, (minimaxL 2 [some X, some O, none, none, some X, some X, some O, some X, some O] O X).2)] X = (some 4, 0)
  rw [mmv_0149, mmv_0213, mmv_0265]
  rfl

theorem mmv_0355 : minimaxL 4 [some X, some O, none, none, none, some X, some O, some X, none] O X = (some 4, 0) := by
  rw [minimaxL_succ 3 [some X, some O, none, none, none, some X, some O, some X, none] O X [2, 3, 4, 8] rfl rfl (List.cons_ne_nil _ _)]
  show pickBest [(2, (minimaxL 3 [some X, some O, some O, none, none, some X, some O, some X, none] X O).2), (3, (minimaxL 3 [some X, some O, none, some O, none, some X, some O, some X, none] X O).2), (4, (minimaxL 3 [some X, some O, none, none, some O, some X, some O, some X, none] X O).2), (8, (minimaxL 3 [some X, some O, none, none, none, some X, some O, some X, some O] X O).2)] O = (some 4, 0)
  rw [mmv_0301, mmv_0334, mmv_0346, mmv_0356]
  rfl

theorem mmv_0358 : minimaxL 3 [some X, some O, none, none, some O, some X, some O, none, some X] X O = (some 2, 1) := rfl

theorem mmv_0359 : minimaxL 3 [some X, some O, none, none, none, some X, some O, some O, some X] X O = (some 4, 1) := rfl

theorem mmv_0357 : minimaxL 4 [some X, some O, none, none, none, some X, some O, none, some X] O X = (some 2, 1) := by
  rw [minimaxL_succ 3 [some X, some O, none, none, none, some X, some O, none, some X] O X [2, 3, 4, 7] rfl rfl (List.cons_ne_nil _ _)]
  show pickBest [(2, (minimaxL 3 [some X, some O, some O, none, none, some X, some O, none, some X] X O).2), (3, (minimaxL 3 [some X, some O, none, some O, none, some X, some O, none, some X] X O).2), (4, (minimaxL 3 [some X, some O, none, none, some O, some X, some O, none, some X] X O).2), (7, (minimaxL 3 [some X, some O, none, none, none, some X, some O, some O, some X] X O).2)] O = (some 2, 1)
  rw [mmv_0313, mmv_0340, mmv_0358, mmv_0359]
  rfl

theorem mmv_0352 : minimaxL 5 [some X, some O, none, none, none, some X, some O, none, none] X O = (some 8, 1) := by
  rw [minimaxL_succ 4 [some X, some O, none, none, none, some X, some O, none, none] X O [2, 3, 4, 7, 8] rfl rfl (List.cons_ne_nil _ _)]
  show pickBest [(2, (minimaxL 4 [some X, some O, some X, none, none, some X, some O, none, none] O X).2), (3, (minimaxL 4 [some X, some O, none, some X, none, some X, some O, none, none] O X).2), (4, (minimaxL 4 [some X, some O, none, none, some X, some X, some O, none, none] O X).2), (7, (minimaxL 4 [some X, some O, none, none, none, some X, some O, some X, none] O X).2), (8, (minimaxL 4 [some X, some O, none, none, none, some X, some O, none, some X] O X).2)] X = (some 8, 1)
  rw [mmv_0145, mmv_0189, mmv_0353, mmv_0355, mmv_0357]
  rfl

theorem mmv_0361 : minimaxL 4 [some X, some O, none, some X, none, some X, none, some O, none] O X = (some 4, -1) := rfl

theorem mmv_0362 : minimaxL 4 [some X, some O, none, none, some X, some X, none, some O, none] O X = (some 2, 1) := by
  rw [minimaxL_succ 3 [some X, some O, none, none, some X, some X, none, some O, none] O X [2, 3, 6, 8] rfl rfl (List.cons_ne_nil _ _)]
  show pickBest [(2, (minimaxL 3 [some X, some O, some O, none, some X, some X, none, some O, none] X O).2), (3, (minimaxL 3 [some X, some O, none, some O, some X, some X, none, some O, none] X O).2), (6, (minimaxL 3 [some X, some O, none, none, some X, some X, some O, some O, none] X O).2), (8, (minimaxL 3 [some X, some O, none, none, some X, some X, none, some O, some O] X O).2)] O = (some 2, 1)
  rw [mmv_0275, mmv_0318, mmv_0354, mmv_0245]
  rfl

theorem mmv_0363 : minimaxL 4 [some X, some O, none, none, none, some X, some X, some O, none] O X = (some 4, -1) := rfl

theorem mmv_0364 : minimaxL 4 [some X, some O, none, none, none, some X, none, some O, some X] O X = (some 4, -1) := rfl

theorem mmv_0360 : minimaxL 5 [some X, some O, none, none, none, some X, none, some O, none] X O = (some 4, 1) := by
  rw [minimaxL_succ 4 [some X, some O, none, none, none, some X, none, some O, none] X O [2, 3, 4, 6, 8] rfl rfl (List.cons_ne_nil _ _)]
  show pickBest [(2, (minimaxL 4 [some X, some O, some X, none, none, some X, none, some O, none] O X).2), (3, (minimaxL 4 [some X, some O, none, some X, none, some X, none, some O, none] O X).2), (4, (minimaxL 4 [some X, some O, none, none, some X, some X, none, some O, none] O X).2), (6, (minimaxL 4 [some X, some O, none, none, none, some X, some X, some O, none] O X).2), (8, (minimaxL 4 [some X, some O, none, none, none, some X, none, some O, some X] O X).2)] X = (some 4, 1)
  rw [mmv_0159, mmv_0361, mmv_0362, mmv_0363, mmv_0364]
  rfl

theorem mmv_0367 : minimaxL 3 [some X, some O, none, some X, some O, some X, none, none, some O] X O = (some 6, 1) := rfl

theorem mmv_0368 : minimaxL 3 [some X, some O, none, some X, none, some X, none, some O, some O] X O = (some 6, 1) := rfl

theorem mmv_0366 : minimaxL 4 [some X, some O, none, some X, none, some X, none, none, some O] O X = (some 2, 1) := by
  rw [minimaxL_succ 3 [some X, some O, none, some X, none, some X, none, none, some O] O X [2, 4, 6, 7] rfl rfl (List.cons_ne_nil _ _)]
  show pickBest [(2, (minimaxL 3 [some X, some O, some O, some X, none, some X, none, none, some O] X O).2), (4, (minimaxL 3 [some X, some O, none, some X, some O, some X, none, none, some O] X O).2), (6, (minimaxL 3 [some X, some O, none, some X, none, some X, some O, none, some O] X O).2), (7, (minimaxL 3 [some X, some O, none, some X, none, some X, none, some O, some O] X O).2)] O = (some 2, 1)
  rw [mmv_0271, mmv_0367, mmv_0195, mmv_0368]
  rfl

theorem mmv_0370 : minimaxL 3 [some X, some O, none, none, some O, some X, some X, none, some O] X O = (some 3, 1) := rfl

theorem mmv_0371 : minimaxL 3 [some X, some O, none, none, none, some X, some X, some O, some O] X O = (some 3, 1) := rfl

theorem mmv_0369 : minimaxL 4 [some X, some O, none, none, none, some X, some X, none, some O] O X = (some 3, 0) := by
  rw [minimaxL_succ 3 [some X, some O, none, none, none, some X, some X, none, some O] O X [2, 3, 4, 7] rfl rfl (List.cons_ne_nil _ _)]
  show pickBest [(2, (minimaxL 3 [some X, some O, some O, none, none, some X, some X, none, some O] X O).2), (3, (minimaxL 3 [some X, some O, none, some O, none, some X, some X, none, some O] X O).2), (4, (minimaxL 3 [some X, some O, none, none, some O, some X, some X, none, some O] X O).2), (7, (minimaxL 3 [some X, some O, none, none, none, some X, some X, some O, some O] X O).2)] O = (some 3, 0)
  rw [mmv_0288, mmv_0328, mmv_0370, mmv_0371]
  rfl

theorem mmv_0372 : minimaxL 4 [some X, some O, none, none, none, some X, none, some X, some O] O X = (some 3, 0) := by
  rw [minimaxL_succ 3 [some X, some O, none, none, none, some X, none, some X, some O] O X [2, 3, 4, 6] rfl rfl (List.cons_ne_nil _ _)]
  show pickBest [(2, (minimaxL 3 [some X, some O, some O, none, none, some X, none, some X, some O] X O).2), (3, (minimaxL 3 [some X, some O, none, some O, none, some X, none, some X, some O] X O).2), (4, (minimaxL 3 [some X, some O, none, none, some O, some X, none, some X, some O] X O).2), (6, (minimaxL 3 [some X, some O, none, none, none, some X, some O, some X, some O] X O).2)] O = (some 3, 0)
  rw [mmv_0304, mmv_0337, mmv_0348, mmv_0356]
  rfl

theorem mmv_0365 : minimaxL 5 [some X, some O, none, none, none, some X, none, none, some O] X O = (some 3, 1) := by
  rw [minimaxL_succ 4 [some X, some O, none, none, none, some X, none, none, some O] X O [2, 3, 4, 6, 7] rfl rfl (List.cons_ne_nil _ _)]
  show pickBest [(2, (minimaxL 4 [some X, some O, some X, none, none, some X, none, none, some O] O X).2), (3, (minimaxL 4 [some X, some O, none, some X, none, some X, none, none, some O] O X).2), (4, (minimaxL 4 [some X, some O, none, none, some X, some X, none, none, some O] O X).2), (6, (minimaxL 4 [some X, some O, none, none, none, some X, some X, none, some O] O X).2), (7, (minimaxL 4 [some X, some O, none, none, none, some X, none, some X, some O] O X).2)] X = (some 3, 1)
  rw [mmv_0167, mmv_0366, mmv_0234, mmv_0369, mmv_0372]
  rfl

theorem mmv_0266 : minimaxL 6 [some X, some O, none, none, none, some X, none, none, none] O X = (some 4, 0) := by
  rw [minimaxL_succ 5 [some X, some O, none, none, none, some X, none, none, none] O X [2, 3, 4, 6, 7, 8] rfl rfl (List.cons_ne_nil _ _)]
  show pickBest [(2, (minimaxL 5 [some X, some O, some O, none, none, some X, none, none, none] X O).2), (3, (minimaxL 5 [some X, some O, none, some O, none, some X, none, none, none] X O).2), (4, (minimaxL 5 [some X, some O, none, none, some O, some X, none, none, none] X O).2), (6, (minimaxL 5 [some X, some O, none, none, none, some X, some O, none, none] X O).2), (7, (minimaxL 5 [some X, some O, none, none, none, some X, none, some O, none] X O).2), (8, (minimaxL 5 [some X, some O, none, none, none, some X, none, none, some O] X O).2)] O = (some 4, 0)
  rw [mmv_0267, mmv_0315, mmv_0342, mmv_0352, mmv_0360, mmv_0365]
  rfl

theorem mmv_0374 : minimaxL 5 [some X, some O, some O, none, none, none, some X, none, none] X O = (some 3, 1) := rfl

theorem mmv_0377 : minimaxL 3 [some X, some O, some O, some O, some X, none, some X, none, none] X O = (some 8, 1) := rfl

theorem mmv_0378 : minimaxL 3 [some X, some O, none, some O, some X, some O, some X, none, none] X O = (some 8, 1) := rfl

theorem mmv_0379 : minimaxL 3 [some X, some O, none, some O, some X, none, some X, some O, none] X O = (some 8, 1) := rfl

theorem mmv_0376 : minimaxL 4 [some X, some O, none, some O, some X, none, some X, none, none] O X = (some 2, 1) := by
  rw [minimaxL_succ 3 [some X, some O, none, some O, some X, none, some X, none, none] O X [2, 5, 7, 8] rfl rfl (List.cons_ne_nil _ _)]
  show pickBest [(2, (minimaxL 3 [some X, some O, some O, some O, some X, none, some X, none, none] X O).2), (5, (minimaxL 3 [some X, some O, none, some O, some X, some O, some X, none, none] X O).2), (7, (minimaxL 3 [some X, some O, none, some O, some X, none, some X, some O, none] X O).2), (8, (minimaxL 3 [some X, some O, none, some O, some X, none, some X, none, some O] X O).2)] O = (some 2, 1)
  rw [mmv_0377, mmv_0378, mmv_0379, mmv_0248]
  rfl

theorem mmv_0381 : minimaxL 3 [some X, some O, some O, some O, none, none, some X, some X, none] X O = (some 8, 1) := rfl

theorem mmv_0382 : minimaxL 3 [some X, some O, none, some O, some O, none, some X, some X, none] X O = (some 8, 1) := rfl

theorem mmv_0383 : minimaxL 3 [some X, some O, none, some O, none, some O, some X, some X, none] X O = (some 8, 1) := rfl

theorem mmv_0384 : minimaxL 3 [some X, some O, none, some O, none, none, some X, some X, some O] X O = (some 5, 0) := by
  rw [minimaxL_succ 2 [some X, some O, none, some O, none, none, some X, some X, some O] X O [2, 4, 5] rfl rfl (List.cons_ne_nil _ _)]
  show pickBest [(2, (minimaxL 2 [some X, some O, some X, some O, none, none, some X, some X, some O] O X).2), (4, (minimaxL 2 [some X, some O, none, some O, some X, none, some X, some X, some O] O X).2), (5, (minimaxL 2 [some X, some O, none, some O, none, some X, some X, some X, some O] O X).2)] X = (some 5, 0)
  rw [mmv_0055, mmv_0258, mmv_0329]
  rfl

theorem mmv_0380 : minimaxL 4 [some X, some O, none, some O, none, none, some X, some X, none] O X = (some 8, 0) := by
  rw [minimaxL_succ 3 [some X, some O, none, some O, none, none, some X, some X, none] O X [2, 4, 5, 8] rfl rfl (List.cons_ne_nil _ _)]
  show pickBest [(2, (minimaxL 3 [some X, some O, some O, some O, none, none, some X, some X, none] X O).2), (4, (minimaxL 3 [some X, some O, none, some O, some O, none, some X, some X, none] X O).2), (5, (minimaxL 3 [some X, some O, none, some O, none, some O, some X, some X, none] X O).2), (8, (minimaxL 3 [some X, some O, none, some O, none, none, some X, some X, some O] X O).2)] O = (some 8, 0)
  rw [mmv_0381, mmv_0382, mmv_0383, mmv_0384]
  rfl

theorem mmv_0386 : minimaxL 3 [some X, some O, some O, some O, none, none, some X, none, some X] X O = (some 4, 1) := rfl

theorem mmv_0387 : minimaxL 3 [some X, some O, none, some O, some O, none, some X, none, some X] X O = (some 7, 1) := rfl

theorem mmv_0388 : minimaxL 3 [some X, some O, none, some O, none, some O, some X, none, some X] X O = (some 4, 1) := rfl

theorem mmv_0389 : minimaxL 3 [some X, some O, none, some O, none, none, some X, some O, some X] X O = (some 4, 1) := rfl

theorem mmv_0385 : minimaxL 4 [some X, some O, none, some O, none, none, some X, none, some X] O X = (some 2, 1) := by
  rw [minimaxL_succ 3 [some X, some O, none, some O, none, none, some X, none, some X] O X [2, 4, 5, 7] rfl rfl (List.cons_ne_nil _ _)]
  show pickBest [(2, (minimaxL 3 [some X, some O, some O, some O, none, none, some X, none, some X] X O).2), (4, (minimaxL 3 [some X, some O, none, some O, some O, none, some X, none, some X] X O).2), (5, (minimaxL 3 [some X, some O, none, some O, none, some O, some X, none, some X] X O).2), (7, (minimaxL 3 [some X, some O, none, some O, none, none, some X, some O, some X] X O).2)] O = (some 2, 1)
  rw [mmv_0386, mmv_0387, mmv_0388, mmv_0389]
  rfl

theorem mmv_0375 : minimaxL 5 [some X, some O, none, some O, none, none, some X, none, none] X O = (some 8, 1) := by
  rw [minimaxL_succ 4 [some X, some O, none, some O, none, none, some X, none, none] X O [2, 4, 5, 7, 8] rfl rfl (List.cons_ne_nil _ _)]
  show pickBest [(2, (minimaxL 4 [some X, some O, some X, some O, none, none, some X, none, none] O X).2), (4, (minimaxL 4 [some X, some O, none, some O, some X, none, some X, none, none] O X).2), (5, (minimaxL 4 [some X, some O, none, some O, none, some X, some X, none, none] O X).2), (7, (minimaxL 4 [some X, some O, none, some O, none, none, some X, some X, none] O X).2), (8, (minimaxL 4 [some X, some O, none, some O, none, none, some X, none, some X] O X).2)] X = (some 8, 1)
  rw [mmv_0027, mmv_0376, mmv_0319, mmv_0380, mmv_0385]
  rfl

theorem mmv_0390 : minimaxL 5 [some X, some O, none, none, some O, none, some X, none, none] X O = (some 3, 1) := rfl

theorem mmv_0391 : minimaxL 5 [some X, some O, none, none, none, some O, some X, none, none] X O = (some 3, 1) := rfl

theorem mmv_0392 : minimaxL 5 [some X, some O, none, none, none, none, some X, some O, none] X O = (some 3, 1) := rfl

theorem mmv_0393 : minimaxL 5 [some X, some O, none, none, none, none, some X, none, some O] X O = (some 3, 1) := rfl

theorem mmv_0373 : minimaxL 6 [some X, some O, none, none, none, none, some X, none, none] O X = (some 2, 1) := by
  rw [minimaxL_succ 5 [some X, some O, none, none, none, none, some X, none, none] O X [2, 3, 4, 5, 7, 8] rfl rfl (List.cons_ne_nil _ _)]
  show pickBest [(2, (minimaxL 5 [some X, some O, some O, none, none, none, some X, none, none] X O).2), (3, (minimaxL 5 [some X, some O, none, some O, none, none, some X, none, none] X O).2), (4, (minimaxL 5 [some X, some O, none, none, some O, none, some X, none, none] X O).2), (5, (minimaxL 5 [some X, some O, none, none, none, some O, some X, none, none] X O).2), (7, (minimaxL 5 [some X, some O, none, none, none, none, some X, some O, none] X O).2), (8, (minimaxL 5 [some X, some O, none, none, none, none, some X, none, some O] X O).2)] O = (some 2, 1)
  rw [mmv_0374, mmv_0375, mmv_0390, mmv_0391, mmv_0392, mmv_0393]
  rfl

theorem mmv_0397 : minimaxL 3 [some X, some O, some O, some X, some O, none, none, some X, none] X O = (some 6, 1) := rfl

theorem mmv_0398 : minimaxL 3 [some X, some O, some O, some X, none, some O, none, some X, none] X O = (some 6, 1) := rfl

theorem mmv_0399 : minimaxL 3 [some X, some O, some O, some X, none, none, none, some X, some O] X O = (some 6, 1) := rfl

theorem mmv_0396 : minimaxL 4 [some X, some O, some O, some X, none, none, none, some X, none] O X = (some 4, 1) := by
  rw [minimaxL_succ 3 [some X, some O, some O, some X, none, none, none, some X, none] O X [4, 5, 6, 8] rfl rfl (List.cons_ne_nil _ _)]
  show pickBest [(4, (minimaxL 3 [some X, some O, some O, some X, some O, none, none, some X, none] X O).2), (5, (minimaxL 3 [some X, some O, some O, some X, none, some O, none, some X, none] X O).2), (6, (minimaxL 3 [some X, some O, some O, some X, none, none, some O, some X, none] X O).2), (8, (minimaxL 3 [some X, some O, some O, some X, none, none, none, some X, some O] X O).2)] O = (some 4, 1)
  rw [mmv_0397, mmv_0398, mmv_0197, mmv_0399]
  rfl

theorem mmv_0401 : minimaxL 3 [some X, some O, some O, some O, some X, none, none, some X, none] X O = (some 8, 1) := rfl

theorem mmv_0402 : minimaxL 3 [some X, some O, some O, none, some X, some O, none, some X, none] X O = (some 8, 1) := rfl

theorem mmv_0403 : minimaxL 3 [some X, some O, some O, none, some X, none, some O, some X, none] X O = (some 8, 1) := rfl

theorem mmv_0400 : minimaxL 4 [some X, some O, some O, none, some X, none, none, some X, none] O X = (some 8, 0) := by
  rw [minimaxL_succ 3 [some X, some O, some O, none, some X, none, none, some X, none] O X [3, 5, 6, 8] rfl rfl (List.cons_ne_nil _ _)]
  show pickBest [(3, (minimaxL 3 [some X, some O, some O, some O, some X, none, none, some X, none] X O).2), (5, (minimaxL 3 [some X, some O, some O, none, some X, some O, none, some X, none] X O).2), (6, (minimaxL 3 [some X, some O, some O, none, some X, none, some O, some X, none] X O).2), (8, (minimaxL 3 [some X, some O, some O, none, some X, none, none, some X, some O] X O).2)] O = (some 8, 0)
  rw [mmv_0401, mmv_0402, mmv_0403, mmv_0252]
  rfl

theorem mmv_0405 : minimaxL 3 [some X, some O, some O, none, some O, none, some X, some X, none] X O = (some 3, 1) := rfl

theorem mmv_0406 : minimaxL 3 [some X, some O, some O, none, none, some O, some X, some X, none] X O = (some 3, 1) := rfl

theorem mmv_0407 : minimaxL 3 [some X, some O, some O, none, none, none, some X, some X, some O] X O = (some 3, 1) := rfl

theorem mmv_0404 : minimaxL 4 [some X, some O, some O, none, none, none, some X, some X, none] O X = (some 3, 1) := by
  rw [minimaxL_succ 3 [some X, some O, some O, none, none, none, some X, some X, none] O X [3, 4, 5, 8] rfl rfl (List.cons_ne_nil _ _)]
  show pickBest [(3, (minimaxL 3 [some X, some O, some O, some O, none, none, some X, some X, none] X O).2), (4, (minimaxL 3 [some X, some O, some O, none, some O, none, some X, some X, none] X O).2), (5, (minimaxL 3 [some X, some O, some O, none, none, some O, some X, some X, none] X O).2), (8, (minimaxL 3 [some X, some O, some O, none, none, none, some X, some X, some O] X O).2)] O = (some 3, 1)
  rw [mmv_0381, mmv_0405, mmv_0406, mmv_0407]
  rfl

theorem mmv_0409 : minimaxL 3 [some X, some O, some O, some O, none, none, none, some X, some X] X O = (some 4, 1) := rfl

theorem mmv_0410 : minimaxL 3 [some X, some O, some O, none, some O, none, none, some X, some X] X O = (some 6, 1) := rfl

theorem mmv_0411 : minimaxL 3 [some X, some O, some O, none, none, some O, none, some X, some X] X O = (some 4, 1) := rfl

theorem mmv_0412 : minimaxL 3 [some X, some O, some O, none, none, none, some O, some X, some X] X O = (some 4, 1) := rfl

theorem mmv_0408 : minimaxL 4 [some X, some O, some O, none, none, none, none, some X, some X] O X = (some 3, 1) := by
  rw [minimaxL_succ 3 [some X, some O, some O, none, none, none, none, some X, some X] O X [3, 4, 5, 6] rfl rfl (List.cons_ne_nil _ _)]
  show pickBest [(3, (minimaxL 3 [some X, some O, some O, some O, none, none, none, some X, some X] X O).2), (4, (minimaxL 3 [some X, some O, some O, none, some O, none, none, some X, some X] X O).2), (5, (minimaxL 3 [some X, some O, some O, none, none, some O, none, some X, some X] X O).2), (6, (minimaxL 3 [some X, some O, some O, none, none, none, some O, some X, some X] X O).2)] O = (some 3, 1)
  rw [mmv_0409, mmv_0410, mmv_0411, mmv_0412]
  rfl

theorem mmv_0395 : minimaxL 5 [some X, some O, some O, none, none, none, none, some X, none] X O = (some 8, 1) := by
  rw [minimaxL_succ 4 [some X, some O, some O, none, none, none, none, some X, none] X O [3, 4, 5, 6, 8] rfl rfl (List.cons_ne_nil _ _)]
  show pickBest [(3, (minimaxL 4 [some X, some O, some O, some X, none, none, none, some X, none] O X).2), (4, (minimaxL 4 [some X, some O, some O, none, some X, none, none, some X, none] O X).2), (5, (minimaxL 4 [some X, some O, some O, none, none, some X, none, some X, none] O X).2), (6, (minimaxL 4 [some X, some O, some O, none, none, none, some X, some X, none] O X).2), (8, (minimaxL 4 [some X, some O, some O, none, none, none, none, some X, some X] O X).2)] X = (some 8, 1)
  rw [mmv_0396, mmv_0400, mmv_0289, mmv_0404, mmv_0408]
  rfl

theorem mmv_0415 : minimaxL 3 [some X, some O, none, some O, some X, some O, none, some X, none] X O = (some 8, 1) := rfl

theorem mmv_0416 : minimaxL 3 [some X, some O, none, some O, some X, none, some O, some X, none] X O = (some 8, 1) := rfl

theorem mmv_0414 : minimaxL 4 [some X, some O, none, some O, some X, none, none, some X, none] O X = (some 8, 0) := by
  rw [minimaxL_succ 3 [some X, some O, none, some O, some X, none, none, some X, none] O X [2, 5, 6, 8] rfl rfl (List.cons_ne_nil _ _)]
  show pickBest [(2, (minimaxL 3 [some X, some O, some O, some O, some X, none, none, some X, none] X O).2), (5, (minimaxL 3 [some X, some O, none, some O, some X, some O, none, some X, none] X O).2), (6, (minimaxL 3 [some X, some O, none, some O, some X, none, some O, some X, none] X O).2), (8, (minimaxL 3 [some X, some O, none, some O, some X, none, none, some X, some O] X O).2)] O = (some 8, 0)
  rw [mmv_0401, mmv_0415, mmv_0416, mmv_0257]
  rfl

theorem mmv_0418 : minimaxL 3 [some X, some O, none, some O, some O, none, none, some X, some X] X O = (some 6, 1) := rfl

theorem mmv_0419 : minimaxL 3 [some X, some O, none, some O, none, some O, none, some X, some X] X O = (some 4, 1) := rfl

theorem mmv_0420 : minimaxL 3 [some X, some O, none, some O, none, none, some O, some X, some X] X O = (some 4, 1) := rfl

theorem mmv_0417 : minimaxL 4 [some X, some O, none, some O, none, none, none, some X, some X] O X = (some 2, 1) := by
  rw [minimaxL_succ 3 [some X, some O, none, some O, none, none, none, some X, some X] O X [2, 4, 5, 6] rfl rfl (List.cons_ne_nil _ _)]
  show pickBest [(2, (minimaxL 3 [some X, some O, some O, some O, none, none, none, some X, some X] X O).2), (4, (minimaxL 3 [some X, some O, none, some O, some O, none, none, some X, some X] X O).2), (5, (minimaxL 3 [some X, some O, none, some O, none, some O, none, some X, some X] X O).2), (6, (minimaxL 3 [some X, some O, none, some O, none, none, some O, some X, some X] X O).2)] O = (some 2, 1)
  rw [mmv_0409, mmv_0418, mmv_0419, mmv_0420]
  rfl

theorem mmv_0413 : minimaxL 5 [some X, some O, none, some O, none, none, none, some X, none] X O = (some 8, 1) := by
  rw [minimaxL_succ 4 [some X, some O, none, some O, none, none, none, some X, none] X O [2, 4, 5, 6, 8] rfl rfl (List.cons_ne_nil _ _)]
  show pickBest [(2, (minimaxL 4 [some X, some O, some X, some O, none, none, none, some X, none] O X).2), (4, (minimaxL 4 [some X, some O, none, some O, some X, none, none, some X, none] O X).2), (5, (minimaxL 4 [some X, some O, none, some O, none, some X, none, some X, none] O X).2), (6, (minimaxL 4 [some X, some O, none, some O, none, none, some X, some X, none] O X).2), (8, (minimaxL 4 [some X, some O, none, some O, none, none, none, some X, some X] O X).2)] X = (some 8, 1)
  rw [mmv_0035, mmv_0414, mmv_0330, mmv_0380, mmv_0417]
  rfl

theorem mmv_0423 : minimaxL 3 [some X, some O, none, some X, some O, some O, none, some X, none] X O = (some 6, 1) := rfl

theorem mmv_0424 : minimaxL 3 [some X, some O, none, some X, some O, none, none, some X, some O] X O = (some 6, 1) := rfl

theorem mmv_0422 : minimaxL 4 [some X, some O, none, some X, some O, none, none, some X, none] O X = (some 6, 0) := by
  rw [minimaxL_succ 3 [some X, some O, none, some X, some O, none, none, some X, none] O X [2, 5, 6, 8] rfl rfl (List.cons_ne_nil _ _)]
  show pickBest [(2, (minimaxL 3 [some X, some O, some O, some X, some O, none, none, some X, none] X O).2), (5, (minimaxL 3 [some X, some O, none, some X, some O, some O, none, some X, none] X O).2), (6, (minimaxL 3 [some X, some O, none, some X, some O, none, some O, some X, none] X O).2), (8, (minimaxL 3 [some X, some O, none, some X, some O, none, none, some X, some O] X O).2)] O = (some 6, 0)
  rw [mmv_0397, mmv_0423, mmv_0203, mmv_0424]
  rfl

theorem mmv_0426 : minimaxL 3 [some X, some O, none, none, some O, some O, some X, some X, none] X O = (some 3, 1) := rfl

theorem mmv_0427 : minimaxL 3 [some X, some O, none, none, some O, none, some X, some X, some O] X O = (some 3, 1) := rfl

theorem mmv_0425 : minimaxL 4 [some X, some O, none, none, some O, none, some X, some X, none] O X = (some 2, 1) := by
  rw [minimaxL_succ 3 [some X, some O, none, none, some O, none, some X, some X, none] O X [2, 3, 5, 8] rfl rfl (List.cons_ne_nil _ _)]
  show pickBest [(2, (minimaxL 3 [some X, some O, some O, none, some O, none, some X, some X, none] X O).2), (3, (minimaxL 3 [some X, some O, none, some O, some O, none, some X, some X, none] X O).2), (5, (minimaxL 3 [some X, some O, none, none, some O, some O, some X, some X, none] X O).2), (8, (minimaxL 3 [some X, some O, none, none, some O, none, some X, some X, some O] X O).2)] O = (some 2, 1)
  rw [mmv_0405, mmv_0382, mmv_0426, mmv_0427]
  rfl

theorem mmv_0429 : minimaxL 3 [some X, some O, none, none, some O, some O, none, some X, some X] X O = (some 6, 1) := rfl

theorem mmv_0430 : minimaxL 3 [some X, some O, none, none, some O, none, some O, some X, some X] X O = (some 2, 0) := by
  rw [minimaxL_succ 2 [some X, some O, none, none, some O, none, some O, some X, some X] X O [2, 3, 5] rfl rfl (List.cons_ne_nil _ _)]
  show pickBest [(2, (minimaxL 2 [some X, some O, some X, none, some O, none, some O, some X, some X] O X).2), (3, (minimaxL 2 [some X, some O, none, some X, some O, none, some O, some X, some X] O X).2), (5, (minimaxL 2 [some X, some O, none, none, some O, some X, some O, some X, some X] O X).2)] X = (some 2, 0)
  rw [mmv_0081, mmv_0204, mmv_0347]
  rfl

theorem mmv_0428 : minimaxL 4 [some X, some O, none, none, some O, none, none, some X, some X] O X = (some 6, 0) := by
  rw [minimaxL_succ 3 [some X, some O, none, none, some O, none, none, some X, some X] O X [2, 3, 5, 6] rfl rfl (List.cons_ne_nil _ _)]
  show pickBest [(2, (minimaxL 3 [some X, some O, some O, none, some O, none, none, some X, some X] X O).2), (3, (minimaxL 3 [some X, some O, none, some O, some O, none, none, some X, some X] X O).2), (5, (minimaxL 3 [some X, some O, none, none, some O, some O, none, some X, some X] X O).2), (6, (minimaxL 3 [some X, some O, none, none, some O, none, some O, some X, some X] X O).2)] O = (some 6, 0)
  rw [mmv_0410, mmv_0418, mmv_0429, mmv_0430]
  rfl

theorem mmv_0421 : minimaxL 5 [some X, some O, none, none, some O, none, none, some X, none] X O = (some 6, 1) := by
  rw [minimaxL_succ 4 [some X, some O, none, none, some O, none, none, some X, none] X O [2, 3, 5, 6, 8] rfl rfl (List.cons_ne_nil _ _)]
  show pickBest [(2, (minimaxL 4 [some X, some O, some X, none, some O, none, none, some X, none] O X).2), (3, (minimaxL 4 [some X, some O, none, some X, some O, none, none, some X, none] O X).2), (5, (minimaxL 4 [some X, some O, none, none, some O, some X, none, some X, none] O X).2), (6, (minimaxL 4 [some X, some O, none, none, some O, none, some X, some X, none] O X).2), (8, (minimaxL 4 [some X, some O, none, none, some O, none, none, some X, some X] O X).2)] X = (some 6, 1)
  rw [mmv_0067, mmv_0422, mmv_0345, mmv_0425, mmv_0428]
  rfl

theorem mmv_0433 : minimaxL 3 [some X, some O, none, some X, none, some O, none, some X, some O] X O = (some 6, 1) := rfl

theorem mmv_0432 : minimaxL 4 [some X, some O, none, some X, none, some O, none, some X, none] O X = (some 6, 0) := by
  rw [minimaxL_succ 3 [some X, some O, none, some X, none, some O, none, some X, none] O X [2, 4, 6, 8] rfl rfl (List.cons_ne_nil _ _)]
  show pickBest [(2, (minimaxL 3 [some X, some O, some O, some X, none, some O, none, some X, none] X O).2), (4, (minimaxL 3 [some X, some O, none, some X, some O, some O, none, some X, none] X O).2), (6, (minimaxL 3 [some X, some O, none, some X, none, some O, some O, some X, none] X O).2), (8, (minimaxL 3 [some X, some O, none, some X, none, some O, none, some X, some O] X O).2)] O = (some 6, 0)
  rw [mmv_0398, mmv_0423, mmv_0205, mmv_0433]
  rfl

theorem mmv_0435 : minimaxL 3 [some X, some O, none, none, some X, some O, some O, some X, none] X O = (some 8, 1) := rfl

theorem mmv_0434 : minimaxL 4 [some X, some O, none, none, some X, some O, none, some X, none] O X = (some 8, 0) := by
  rw [minimaxL_succ 3 [some X, some O, none, none, some X, some O, none, some X, none] O X [2, 3, 6, 8] rfl rfl (List.cons_ne_nil _ _)]
  show pickBest [(2, (minimaxL 3 [some X, some O, some O, none, some X, some O, none, some X, none] X O).2), (3, (minimaxL 3 [some X, some O, none, some O, some X, some O, none, some X, none] X O).2), (6, (minimaxL 3 [some X, some O, none, none, some X, some O, some O, some X, none] X O).2), (8, (minimaxL 3 [some X, some O, none, none, some X, some O, none, some X, some O] X O).2)] O = (some 8, 0)
  rw [mmv_0402, mmv_0415, mmv_0435, mmv_0261]
  rfl

theorem mmv_0437 : minimaxL 3 [some X, some O, none, none, none, some O, some X, some X, some O] X O = (some 3, 1) := rfl

theorem mmv_0436 : minimaxL 4 [some X, some O, none, none, none, some O, some X, some X, none] O X = (some 2, 1) := by
  rw [minimaxL_succ 3 [some X, some O, none, none, none, some O, some X, some X, none] O X [2, 3, 4, 8] rfl rfl (List.cons_ne_nil _ _)]
  show pickBest [(2, (minimaxL 3 [some X, some O, some O, none, none, some O, some X, some X, none] X O).2), (3, (minimaxL 3 [some X, some O, none, some O, none, some O, some X, some X, none] X O).2), (4, (minimaxL 3 [some X, some O, none, none, some O, some O, some X, some X, none] X O).2), (8, (minimaxL 3 [some X, some O, none, none, none, some O, some X, some X, some O] X O).2)] O = (some 2, 1)
  rw [mmv_0406, mmv_0383, mmv_0426, mmv_0437]
  rfl

theorem mmv_0439 : minimaxL 3 [some X, some O, none, none, none, some O, some O, some X, some X] X O = (some 4, 1) := rfl

theorem mmv_0438 : minimaxL 4 [some X, some O, none, none, none, some O, none, some X, some X] O X = (some 2, 1) := by
  rw [minimaxL_succ 3 [some X, some O, none, none, none, some O, none, some X, some X] O X [2, 3, 4, 6] rfl rfl (List.cons_ne_nil _ _)]
  show pickBest [(2, (minimaxL 3 [some X, some O, some O, none, none, some O, none, some X, some X] X O).2), (3, (minimaxL 3 [some X, some O, none, some O, none, some O, none, some X, some X] X O).2), (4, (minimaxL 3 [some X, some O, none, none, some O, some O, none, some X, some X] X O).2), (6, (minimaxL 3 [some X, some O, none, none, none, some O, some O, some X, some X] X O).2)] O = (some 2, 1)
  rw [mmv_0411, mmv_0419, mmv_0429, mmv_0439]
  rfl

theorem mmv_0431 : minimaxL 5 [some X, some O, none, none, none, some O, none, some X, none] X O = (some 8, 1) := by
  rw [minimaxL_succ 4 [some X, some O, none, none, none, some O, none, some X, none] X O [2, 3, 4, 6, 8] rfl rfl (List.cons_ne_nil _ _)]
  show pickBest [(2, (minimaxL 4 [some X, some O, some X, none, none, some O, none, some X, none] O X).2), (3, (minimaxL 4 [some X, some O, none, some X, none, some O, none, some X, none] O X).2), (4, (minimaxL 4 [some X, some O, none, none, some X, some O, none, some X, none] O X).2), (6, (minimaxL 4 [some X, some O, none, none, none, some O, some X, some X, none] O X).2), (8, (minimaxL 4 [some X, some O, none, none, none, some O, none, some X, some X] O X).2)] X = (some 8, 1)
  rw [mmv_0112, mmv_0432, mmv_0434, mmv_0436, mmv_0438]
  rfl

theorem mmv_0441 : minimaxL 4 [some X, some O, none, none, some X, none, some O, some X, none] O X = (some 8, 0) := by
  rw [minimaxL_succ 3 [some X, some O, none, none, some X, none, some O, some X, none] O X [2, 3, 5, 8] rfl rfl (List.cons_ne_nil _ _)]
  show pickBest [(2, (minimaxL 3 [some X, some O, some O, none, some X, none, some O, some X, none] X O).2), (3, (minimaxL 3 [some X, some O, none, some O, some X, none, some O, some X, none] X O).2), (5, (minimaxL 3 [some X, some O, none, none, some X, some O, some O, some X, none] X O).2), (8, (minimaxL 3 [some X, some O, none, none, some X, none, some O, some X, some O] X O).2)] O = (some 8, 0)
  rw [mmv_0403, mmv_0416, mmv_0435, mmv_0264]
  rfl

theorem mmv_0442 : minimaxL 4 [some X, some O, none, none, none, none, some O, some X, some X] O X = (some 4, 0) := by
  rw [minimaxL_succ 3 [some X, some O, none, none, none, none, some O, some X, some X] O X [2, 3, 4, 5] rfl rfl (List.cons_ne_nil _ _)]
  show pickBest [(2, (minimaxL 3 [some X, some O, some O, none, none, none, some O, some X, some X] X O).2), (3, (minimaxL 3 [some X, some O, none, some O, none, none, some O, some X, some X] X O).2), (4, (minimaxL 3 [some X, some O, none, none, some O, none, some O, some X, some X] X O).2), (5, (minimaxL 3 [some X, some O, none, none, none, some O, some O, some X, some X] X O).2)] O = (some 4, 0)
  rw [mmv_0412, mmv_0420, mmv_0430, mmv_0439]
  rfl

theorem mmv_0440 : minimaxL 5 [some X, some O, none, none, none, none, some O, some X, none] X O = (some 8, 0) := by
  rw [minimaxL_succ 4 [some X, some O, none, none, none, none, some O, some X, none] X O [2, 3, 4, 5, 8] rfl rfl (List.cons_ne_nil _ _)]
  show pickBest [(2, (minimaxL 4 [some X, some O, some X, none, none, none, some O, some X, none] O X).2), (3, (minimaxL 4 [some X, some O, none, some X, none, none, some O, some X, none] O X).2), (4, (minimaxL 4 [some X, some O, none, none, some X, none, some O, some X, none] O X).2), (5, (minimaxL 4 [some X, some O, none, none, none, some X, some O, some X, none] O X).2), (8, (minimaxL 4 [some X, some O, none, none, none, none, some O, some X, some X] O X).2)] X = (some 8, 0)
  rw [mmv_0150, mmv_0196, mmv_0441, mmv_0355, mmv_0442]
  rfl

theorem mmv_0444 : minimaxL 4 [some X, some O, none, some X, none, none, none, some X, some O] O X = (some 6, 0) := by
  rw [minimaxL_succ 3 [some X, some O, none, some X, none, none, none, some X, some O] O X [2, 4, 5, 6] rfl rfl (List.cons_ne_nil _ _)]
  show pickBest [(2, (minimaxL 3 [some X, some O, some O, some X, none, none, none, some X, some O] X O).2), (4, (minimaxL 3 [some X, some O, none, some X, some O, none, none, some X, some O] X O).2), (5, (minimaxL 3 [some X, some O, none, some X, none, some O, none, some X, some O] X O).2), (6, (minimaxL 3 [some X, some O, none, some X, none, none, some O, some X, some O] X O).2)] O = (some 6, 0)
  rw [mmv_0399, mmv_0424, mmv_0433, mmv_0211]
  rfl

theorem mmv_0445 : minimaxL 4 [some X, some O, none, none, none, none, some X, some X, some O] O X = (some 3, 0) := by
  rw [minimaxL_succ 3 [some X, some O, none, none, none, none, some X, some X, some O] O X [2, 3, 4, 5] rfl rfl (List.cons_ne_nil _ _)]
  show pickBest [(2, (minimaxL 3 [some X, some O, some O, none, none, none, some X, some X, some O] X O).2), (3, (minimaxL 3 [some X, some O, none, some O, none, none, some X, some X, some O] X O).2), (4, (minimaxL 3 [some X, some O, none, none, some O, none, some X, some X, some O] X O).2), (5, (minimaxL 3 [some X, some O, none, none, none, some O, some X, some X, some O] X O).2)] O = (some 3, 0)
  rw [mmv_0407, mmv_0384, mmv_0427, mmv_0437]
  rfl

theorem mmv_0443 : minimaxL 5 [some X, some O, none, none, none, none, none, some X, some O] X O = (some 6, 0) := by
  rw [minimaxL_succ 4 [some X, some O, none, none, none, none, none, some X, some O] X O [2, 3, 4, 5, 6] rfl rfl (List.cons_ne_nil _ _)]
  show pickBest [(2, (minimaxL 4 [some X, some O, some X, none, none, none, none, some X, some O] O X).2), (3, (minimaxL 4 [some X, some O, none, some X, none, none, none, some X, some O] O X).2), (4, (minimaxL 4 [some X, some O, none, none, some X, none, none, some X, some O] O X).2), (5, (minimaxL 4 [some X, some O, none, none, none, some X, none, some X, some O] O X).2), (6, (minimaxL 4 [some X, some O, none, none, none, none, some X, some X, some O] O X).2)] X = (some 6, 0)
  rw [mmv_0178, mmv_0444, mmv_0251, mmv_0372, mmv_0445]
  rfl

theorem mmv_0394 : minimaxL 6 [some X, some O, none, none, none, none, none, some X, none] O X = (some 6, 0) := by
  rw [minimaxL_succ 5 [some X, some O, none, none, none, none, none, some X, none] O X [2, 3, 4, 5, 6, 8] rfl rfl (List.cons_ne_nil _ _)]
  show pickBest [(2, (minimaxL 5 [some X, some O, some O, none, none, none, none, some X, none] X O).2), (3, (minimaxL 5 [some X, some O, none, some O, none, none, none, some X, none] X O).2), (4, (minimaxL 5 [some X, some O, none, none, some O, none, none, some X, none] X O).2), (5, (minimaxL 5 [some X, some O, none, none, none, some O, none, some X, none] X O).2), (6, (minimaxL 5 [some X, some O, none, none, none, none, some O, some X, none] X O).2), (8, (minimaxL 5 [some X, some O, none, none, none, none, none, some X, some O] X O).2)] O = (some 6, 0)
  rw [mmv_0395, mmv_0413, mmv_0421, mmv_0431, mmv_0440, mmv_0443]
  rfl

theorem mmv_0447 : minimaxL 5 [some X, some O, some O, none, none, none, none, none, some X] X O = (some 4, 1) := rfl

theorem mmv_0448 : minimaxL 5 [some X, some O, none, some O, none, none, none, none, some X] X O = (some 4, 1) := rfl

theorem mmv_0450 : minimaxL 4 [some X, some O, none, some X, some O, none, none, none, some X] O X = (some 7, -1) := rfl

theorem mmv_0451 : minimaxL 4 [some X, some O, none, none, some O, none, some X, none, some X] O X = (some 7, -1) := rfl

theorem mmv_0449 : minimaxL 5 [some X, some O, none, none, some O, none, none, none, some X] X O = (some 7, 0) := by
  rw [minimaxL_succ 4 [some X, some O, none, none, some O, none, none, none, some X] X O [2, 3, 5, 6, 7] rfl rfl (List.cons_ne_nil _ _)]
  show pickBest [(2, (minimaxL 4 [some X, some O, some X, none, some O, none, none, none, some X] O X).2), (3, (minimaxL 4 [some X, some O, none, some X, some O, none, none, none, some X] O X).2), (5, (minimaxL 4 [some X, some O, none, none, some O, some X, none, none, some X] O X).2), (6, (minimaxL 4 [some X, some O, none, none, some O, none, some X, none, some X] O X).2), (7, (minimaxL 4 [some X, some O, none, none, some O, none, none, some X, some X] O X).2)] X = (some 7, 0)
  rw [mmv_0088, mmv_0450, mmv_0351, mmv_0451, mmv_0428]
  rfl

theorem mmv_0452 : minimaxL 5 [some X, some O, none, none, none, some O, none, none, some X] X O = (some 4, 1) := rfl

theorem mmv_0453 : minimaxL 5 [some X, some O, none, none, none, none, some O, none, some X] X O = (some 4, 1) := rfl

theorem mmv_0454 : minimaxL 5 [some X, some O, none, none, none, none, none, some O, some X] X O = (some 4, 1) := rfl

theorem mmv_0446 : minimaxL 6 [some X, some O, none, none, none, none, none, none, some X] O X = (some 4, 0) := by
  rw [minimaxL_succ 5 [some X, some O, none, none, none, none, none, none, some X] O X [2, 3, 4, 5, 6, 7] rfl rfl (List.cons_ne_nil _ _)]
  show pickBest [(2, (minimaxL 5 [some X, some O, some O, none, none, none, none, none, some X] X O).2), (3, (minimaxL 5 [some X, some O, none, some O, none, none, none, none, some X] X O).2), (4, (minimaxL 5 [some X, some O, none, none, some O, none, none, none, some X] X O).2), (5, (minimaxL 5 [some X, some O, none, none, none, some O, none, none, some X] X O).2), (6, (minimaxL 5 [some X, some O, none, none, none, none, some O, none, some X] X O).2), (7, (minimaxL 5 [some X, some O, none, none, none, none, none, some O, some X] X O).2)] O = (some 4, 0)
  rw [mmv_0447, mmv_0448, mmv_0449, mmv_0452, mmv_0453, mmv_0454]
  rfl

theorem mmv_0003 : minimaxL 7 [some X, some O, none, none, none, none, none, none, none] X O = (some 6, 1) := by
  rw [minimaxL_succ 6 [some X, some O, none, none, none, none, none, none, none] X O [2, 3, 4, 5, 6, 7, 8] rfl rfl (List.cons_ne_nil _ _)]
  show pickBest [(2, (minimaxL 6 [some X, some O, some X, none, none, none, none, none, none] O X).2), (3, (minimaxL 6 [some X, some O, none, some X, none, none, none, none, none] O X).2), (4, (minimaxL 6 [some X, some O, none, none, some X, none, none, none, none] O X).2), (5, (minimaxL 6 [some X, some O, none, none, none, some X, none, none, none] O X).2), (6, (minimaxL 6 [some X, some O, none, none, none, none, some X, none, none] O X).2), (7, (minimaxL 6 [some X, some O, none, none, none, none, none, some X, none] O X).2), (8, (minimaxL 6 [some X, some O, none, none, none, none, none, none, some X] O X).2)] X = (some 6, 1)
  rw [mmv_0004, mmv_0179, mmv_0223, mmv_0266, mmv_0373, mmv_0394, mmv_0446]
  rfl

theorem mmv_0459 : minimaxL 3 [some X, some X, some O, some O, some X, some O, none, none, none] X O = (some 8, 1) := rfl

theorem mmv_0460 : minimaxL 3 [some X, some X, some O, some O, some X, none, some O, none, none] X O = (some 8, 1) := rfl

theorem mmv_0461 : minimaxL 3 [some X, some X, some O, some O, some X, none, none, some O, none] X O = (some 8, 1) := rfl

theorem mmv_0462 : minimaxL 3 [some X, some X, some O, some O, some X, none, none, none, some O] X O = (some 7, 1) := rfl

theorem mmv_0458 : minimaxL 4 [some X, some X, some O, some O, some X, none, none, none, none] O X = (some 5, 1) := by
  rw [minimaxL_succ 3 [some X, some X, some O, some O, some X, none, none, none, none] O X [5, 6, 7, 8] rfl rfl (List.cons_ne_nil _ _)]
  show pickBest [(5, (minimaxL 3 [some X, some X, some O, some O, some X, some O, none, none, none] X O).2), (6, (minimaxL 3 [some X, some X, some O, some O, some X, none, some O, none, none] X O).2), (7, (minimaxL 3 [some X, some X, some O, some O, some X, none, none, some O, none] X O).2), (8, (minimaxL 3 [some X, some X, some O, some O, some X, none, none, none, some O] X O).2)] O = (some 5, 1)
  rw [mmv_0459, mmv_0460, mmv_0461, mmv_0462]
  rfl

theorem mmv_0467 : minimaxL 0 [some X, some X, some O, some O, some O, some X, some X, some O, some X] O X = (none, 0) := rfl

theorem mmv_0466 : minimaxL 1 [some X, some X, some O, some O, some O, some X, some X, some O, none] X O = (some 8, 0) := by
  rw [minimaxL_succ 0 [some X, some X, some O, some O, some O, some X, some X, some O, none] X O [8] rfl rfl (List.cons_ne_nil _ _)]
  show pickBest [(8, (minimaxL 0 [some X, some X, some O, some O, some O, some X, some X, some O, some X] O X).2)] X = (some 8, 0)
  rw [mmv_0467]
  rfl

theorem mmv_0469 : minimaxL 0 [some X, some X, some O, some O, some O, some X, some X, some X, some O] O X = (none, 0) := rfl

theorem mmv_0468 : minimaxL 1 [some X, some X, some O, some O, some O, some X, some X, none, some O] X O = (some 7, 0) := by
  rw [minimaxL_succ 0 [some X, some X, some O, some O, some O, some X, some X, none, some O] X O [7] rfl rfl (List.cons_ne_nil _ _)]
  show pickBest [(7, (minimaxL 0 [some X, some X, some O, some O, some O, some X, some X, some X, some O] O X).2)] X = (some 7, 0)
  rw [mmv_0469]
  rfl

theorem mmv_0465 : minimaxL 2 [some X, some X, some O, some O, some O, some X, some X, none, none] O X = (some 7, 0) := by
  rw [minimaxL_succ 1 [some X, some X, some O, some O, some O, some X, some X, none, none] O X [7, 8] rfl rfl (List.cons_ne_nil _ _)]
  show pickBest [(7, (minimaxL 1 [some X, some X, some O, some O, some O, some X, some X, some O, none] X O).2), (8, (minimaxL 1 [some X, some X, some O, some O, some O, some X, some X, none, some O] X O).2)] O = (some 7, 0)
  rw [mmv_0466, mmv_0468]
  rfl

theorem mmv_0470 : minimaxL 2 [some X, some X, some O, some O, some O, some X, none, some X, none] O X = (some 6, -1) := rfl

theorem mmv_0471 : minimaxL 2 [some X, some X, some O, some O, some O, some X, none, none, some X] O X = (some 6, -1) := rfl

theorem mmv_0464 : minimaxL 3 [some X, some X, some O, some O, some O, some X, none, none, none] X O = (some 6, 0) := by
  rw [minimaxL_succ 2 [some X, some X, some O, some O, some O, some X, none, none, none] X O [6, 7, 8] rfl rfl (List.cons_ne_nil _ _)]
  show pickBest [(6, (minimaxL 2 [some X, some X, some O, some O, some O, some X, some X, none, none] O X).2), (7, (minimaxL 2 [some X, some X, some O, some O, some O, some X, none, some X, none] O X).2), (8, (minimaxL 2 [some X, some X, some O, some O, some O, some X, none, none, some X] O X).2)] X = (some 6, 0)
  rw [mmv_0465, mmv_0470, mmv_0471]
  rfl

theorem mmv_0474 : minimaxL 1 [some X, some X, some O, some O, some X, some X, some O, some O, none] X O = (some 8, 1) := rfl

theorem mmv_0475 : minimaxL 1 [some X, some X, some O, some O, some X, some X, some O, none, some O] X O = (some 7, 1) := rfl

theorem mmv_0473 : minimaxL 2 [some X, some X, some O, some O, some X, some X, some O, none, none] O X = (some 7, 1) := by
  rw [minimaxL_succ 1 [some X, some X, some O, some O, some X, some X, some O, none, none] O X [7, 8] rfl rfl (List.cons_ne_nil _ _)]
  show pickBest [(7, (minimaxL 1 [some X, some X, some O, some O, some X, some X, some O, some O, none] X O).2), (8, (minimaxL 1 [some X, some X, some O, some O, some X, some X, some O, none, some O] X O).2)] O = (some 7, 1)
  rw [mmv_0474, mmv_0475]
  rfl

theorem mmv_0476 : minimaxL 2 [some X, some X, some O, some O, none, some X, some O, some X, none] O X = (some 4, -1) := rfl

theorem mmv_0477 : minimaxL 2 [some X, some X, some O, some O, none, some X, some O, none, some X] O X = (some 4, -1) := rfl

theorem mmv_0472 : minimaxL 3 [some X, some X, some O, some O, none, some X, some O, none, none] X O = (some 4, 1) := by
  rw [minimaxL_succ 2 [some X, some X, some O, some O, none, some X, some O, none, none] X O [4, 7, 8] rfl rfl (List.cons_ne_nil _ _)]
  show pickBest [(4, (minimaxL 2 [some X, some X, some O, some O, some X, some X, some O, none, none] O X).2), (7, (minimaxL 2 [some X, some X, some O, some O, none, some X, some O, some X, none] O X).2), (8, (minimaxL 2 [some X, some X, some O, some O, none, some X, some O, none, some X] O X).2)] X = (some 4, 1)
  rw [mmv_0473, mmv_0476, mmv_0477]
  rfl

theorem mmv_0481 : minimaxL 0 [some X, some X, some O, some O, some X, some X, some X, some O, some O] O X = (none, 0) := rfl

theorem mmv_0480 : minimaxL 1 [some X, some X, some O, some O, some X, some X, none, some O, some O] X O = (some 6, 0) := by
  rw [minimaxL_succ 0 [some X, some X, some O, some O, some X, some X, none, some O, some O] X O [6] rfl rfl (List.cons_ne_nil _ _)]
  show pickBest [(6, (minimaxL 0 [some X, some X, some O, some O, some X, some X, some X, some O, some O] O X).2)] X = (some 6, 0)
  rw [mmv_0481]
  rfl

theorem mmv_0479 : minimaxL 2 [some X, some X, some O, some O, some X, some X, none, some O, none] O X = (some 8, 0) := by
  rw [minimaxL_succ 1 [some X, some X, some O, some O, some X, some X, none, some O, none] O X [6, 8] rfl rfl (List.cons_ne_nil _ _)]
  show pickBest [(6, (minimaxL 1 [some X, some X, some O, some O, some X, some X, some O, some O, none] X O).2), (8, (minimaxL 1 [some X, some X, some O, some O, some X, some X, none, some O, some O] X O).2)] O = (some 8, 0)
  rw [mmv_0474, mmv_0480]
  rfl

theorem mmv_0483 : minimaxL 1 [some X, some X, some O, some O, none, some X, some X, some O, some O] X O = (some 4, 0) := by
  rw [minimaxL_succ 0 [some X, some X, some O, some O, none, some X, some X, some O, some O] X O [4] rfl rfl (List.cons_ne_nil _ _)]
  show pickBest [(4, (minimaxL 0 [some X, some X, some O, some O, some X, some X, some X, some O, some O] O X).2)] X = (some 4, 0)
  rw [mmv_0481]
  rfl

theorem mmv_0482 : minimaxL 2 [some X, some X, some O, some O, none, some X, some X, some O, none] O X = (some 4, 0) := by
  rw [minimaxL_succ 1 [some X, some X, some O, some O, none, some X, some X, some O, none] O X [4, 8] rfl rfl (List.cons_ne_nil _ _)]
  show pickBest [(4, (minimaxL 1 [some X, some X, some O, some O, some O, some X, some X, some O, none] X O).2), (8, (minimaxL 1 [some X, some X, some O, some O, none, some X, some X, some O, some O] X O).2)] O = (some 4, 0)
  rw [mmv_0466, mmv_0483]
  rfl

theorem mmv_0485 : minimaxL 1 [some X, some X, some O, some O, some O, some X, none, some O, some X] X O = (some 6, 0) := by
  rw [minimaxL_succ 0 [some X, some X, some O, some O, some O, some X, none, some O, some X] X O [6] rfl rfl (List.cons_ne_nil _ _)]
  show pickBest [(6, (minimaxL 0 [some X, some X, some O, some O, some O, some X, some X, some O, some X] O X).2)] X = (some 6, 0)
  rw [mmv_0467]
  rfl

theorem mmv_0486 : minimaxL 1 [some X, some X, some O, some O, none, some X, some O, some O, some X] X O = (some 4, 1) := rfl

theorem mmv_0484 : minimaxL 2 [some X, some X, some O, some O, none, some X, none, some O, some X] O X = (some 4, 0) := by
  rw [minimaxL_succ 1 [some X, some X, some O, some O, none, some X, none, some O, some X] O X [4, 6] rfl rfl (List.cons_ne_nil _ _)]
  show pickBest [(4, (minimaxL 1 [some X, some X, some O, some O, some O, some X, none, some O, some X] X O).2), (6, (minimaxL 1 [some X, some X, some O, some O, none, some X, some O, some O, some X] X O).2)] O = (some 4, 0)
  rw [mmv_0485, mmv_0486]
  rfl

theorem mmv_0478 : minimaxL 3 [some X, some X, some O, some O, none, some X, none, some O, none] X O = (some 8, 0) := by
  rw [minimaxL_succ 2 [some X, some X, some O, some O, none, some X, none, some O, none] X O [4, 6, 8] rfl rfl (List.cons_ne_nil _ _)]
  show pickBest [(4, (minimaxL 2 [some X, some X, some O, some O, some X, some X, none, some O, none] O X).2), (6, (minimaxL 2 [some X, some X, some O, some O, none, some X, some X, some O, none] O X).2), (8, (minimaxL 2 [some X, some X, some O, some O, none, some X, none, some O, some X] O X).2)] X = (some 8, 0)
  rw [mmv_0479, mmv_0482, mmv_0484]
  rfl

theorem mmv_0488 : minimaxL 2 [some X, some X, some O, some O, some X, some X, none, none, some O] O X = (some 7, 0) := by
  rw [minimaxL_succ 1 [some X, some X, some O, some O, some X, some X, none, none, some O] O X [6, 7] rfl rfl (List.cons_ne_nil _ _)]
  show pickBest [(6, (minimaxL 1 [some X, some X, some O, some O, some X, some X, some O, none, some O] X O).2), (7, (minimaxL 1 [some X, some X, some O, some O, some X, some X, none, some O, some O] X O).2)] O = (some 7, 0)
  rw [mmv_0475, mmv_0480]
  rfl

theorem mmv_0489 : minimaxL 2 [some X, some X, some O, some O, none, some X, some X, none, some O] O X = (some 4, 0) := by
  rw [minimaxL_succ 1 [some X, some X, some O, some O, none, some X, some X, none, some O] O X [4, 7] rfl rfl (List.cons_ne_nil _ _)]
  show pickBest [(4, (minimaxL 1 [some X, some X, some O, some O, some O, some X, some X, none, some O] X O).2), (7, (minimaxL 1 [some X, some X, some O, some O, none, some X, some X, some O, some O] X O).2)] O = (some 4, 0)
  rw [mmv_0468, mmv_0483]
  rfl

theorem mmv_0491 : minimaxL 1 [some X, some X, some O, some O, some O, some X, none, some X, some O] X O = (some 6, 0) := by
  rw [minimaxL_succ 0 [some X, some X, some O, some O, some O, some X, none, some X, some O] X O [6] rfl rfl (List.cons_ne_nil _ _)]
  show pickBest [(6, (minimaxL 0 [some X, some X, some O, some O, some O, some X, some X, some X, some O] O X).2)] X = (some 6, 0)
  rw [mmv_0469]
  rfl

theorem mmv_0492 : minimaxL 1 [some X, some X, some O, some O, none, some X, some O, some X, some O] X O = (some 4, 1) := rfl

theorem mmv_0490 : minimaxL 2 [some X, some X, some O, some O, none, some X, none, some X, some O] O X = (some 4, 0) := by
  rw [minimaxL_succ 1 [some X, some X, some O, some O, none, some X, none, some X, some O] O X [4, 6] rfl rfl (List.cons_ne_nil _ _)]
  show pickBest [(4, (minimaxL 1 [some X, some X, some O, some O, some O, some X, none, some X, some O] X O).2), (6, (minimaxL 1 [some X, some X, some O, some O, none, some X, some O, some X, some O] X O).2)] O = (some 4, 0)
  rw [mmv_0491, mmv_0492]
  rfl

theorem mmv_0487 : minimaxL 3 [some X, some X, some O, some O, none, some X, none, none, some O] X O = (some 7, 0) := by
  rw [minimaxL_succ 2 [some X, some X, some O, some O, none, some X, none, none, some O] X O [4, 6, 7] rfl rfl (List.cons_ne_nil _ _)]
  show pickBest [(4, (minimaxL 2 [some X, some X, some O, some O, some X, some X, none, none, some O] O X).2), (6, (minimaxL 2 [some X, some X, some O, some O, none, some X, some X, none, some O] O X).2), (7, (minimaxL 2 [some X, some X, some O, some O, none, some X, none, some X, some O] O X).2)] X = (some 7, 0)
  rw [mmv_0488, mmv_0489, mmv_0490]
  rfl

theorem mmv_0463 : minimaxL 4 [some X, some X, some O, some O, none, some X, none, none, none] O X = (some 4, 0) := by
  rw [minimaxL_succ 3 [some X, some X, some O, some O, none, some X, none, none, none] O X [4, 6, 7, 8] rfl rfl (List.cons_ne_nil _ _)]
  show pickBest [(4, (minimaxL 3 [some X, some X, some O, some O, some O, some X, none, none, none] X O).2), (6, (minimaxL 3 [some X, some X, some O, some O, none, some X, some O, none, none] X O).2), (7, (minimaxL 3 [some X, some X, some O, some O, none, some X, none, some O, none] X O).2), (8, (minimaxL 3 [some X, some X, some O, some O, none, some X, none, none, some O] X O).2)] O = (some 4, 0)
  rw [mmv_0464, mmv_0472, mmv_0478, mmv_0487]
  rfl

theorem mmv_0495 : minimaxL 2 [some X, some X, some O, some O, some O, none, some X, some X, none] O X = (some 5, -1) := rfl

theorem mmv_0496 : minimaxL 2 [some X, some X, some O, some O, some O, none, some X, none, some X] O X = (some 5, -1) := rfl

theorem mmv_0494 : minimaxL 3 [some X, some X, some O, some O, some O, none, some X, none, none] X O = (some 5, 0) := by
  rw [minimaxL_succ 2 [some X, some X, some O, some O, some O, none, some X, none, none] X O [5, 7, 8] rfl rfl (List.cons_ne_nil _ _)]
  show pickBest [(5, (minimaxL 2 [some X, some X, some O, some O, some O, some X, some X, none, none] O X).2), (7, (minimaxL 2 [some X, some X, some O, some O, some O, none, some X, some X, none] O X).2), (8, (minimaxL 2 [some X, some X, some O, some O, some O, none, some X, none, some X] O X).2)] X = (some 5, 0)
  rw [mmv_0465, mmv_0495, mmv_0496]
  rfl

theorem mmv_0498 : minimaxL 2 [some X, some X, some O, some O, some X, some O, some X, none, none] O X = (some 8, -1) := rfl

theorem mmv_0499 : minimaxL 2 [some X, some X, some O, some O, none, some O, some X, some X, none] O X = (some 8, -1) := rfl

theorem mmv_0500 : minimaxL 2 [some X, some X, some O, some O, none, some O, some X, none, some X] O X = (some 4, -1) := rfl

theorem mmv_0497 : minimaxL 3 [some X, some X, some O, some O, none, some O, some X, none, none] X O = (some 8, -1) := by
  rw [minimaxL_succ 2 [some X, some X, some O, some O, none, some O, some X, none, none] X O [4, 7, 8] rfl rfl (List.cons_ne_nil _ _)]
  show pickBest [(4, (minimaxL 2 [some X, some X, some O, some O, some X, some O, some X, none, none] O X).2), (7, (minimaxL 2 [some X, some X, some O, some O, none, some O, some X, some X, none] O X).2), (8, (minimaxL 2 [some X, some X, some O, some O, none, some O, some X, none, some X] O X).2)] X = (some 8, -1)
  rw [mmv_0498, mmv_0499, mmv_0500]
  rfl

theorem mmv_0503 : minimaxL 1 [some X, some X, some O, some O, some X, some O, some X, some O, none] X O = (some 8, 1) := rfl

theorem mmv_0504 : minimaxL 1 [some X, some X, some O, some O, some X, none, some X, some O, some O] X O = (some 5, 0) := by
  rw [minimaxL_succ 0 [some X, some X, some O, some O, some X, none, some X, some O, some O] X O [5] rfl rfl (List.cons_ne_nil _ _)]
  show pickBest [(5, (minimaxL 0 [some X, some X, some O, some O, some X, some X, some X, some O, some O] O X).2)] X = (some 5, 0)
  rw [mmv_0481]
  rfl

theorem mmv_0502 : minimaxL 2 [some X, some X, some O, some O, some X, none, some X, some O, none] O X = (some 8, 0) := by
  rw [minimaxL_succ 1 [some X, some X, some O, some O, some X, none, some X, some O, none] O X [5, 8] rfl rfl (List.cons_ne_nil _ _)]
  show pickBest [(5, (minimaxL 1 [some X, some X, some O, some O, some X, some O, some X, some O, none] X O).2), (8, (minimaxL 1 [some X, some X, some O, some O, some X, none, some X, some O, some O] X O).2)] O = (some 8, 0)
  rw [mmv_0503, mmv_0504]
  rfl

theorem mmv_0506 : minimaxL 1 [some X, some X, some O, some O, some O, none, some X, some O, some X] X O = (some 5, 0) := by
  rw [minimaxL_succ 0 [some X, some X, some O, some O, some O, none, some X, some O, some X] X O [5] rfl rfl (List.cons_ne_nil _ _)]
  show pickBest [(5, (minimaxL 0 [some X, some X, some O, some O, some O, some X, some X, some O, some X] O X).2)] X = (some 5, 0)
  rw [mmv_0467]
  rfl

theorem mmv_0507 : minimaxL 1 [some X, some X, some O, some O, none, some O, some X, some O, some X] X O = (some 4, 1) := rfl

theorem mmv_0505 : minimaxL 2 [some X, some X, some O, some O, none, none, some X, some O, some X] O X = (some 4, 0) := by
  rw [minimaxL_succ 1 [some X, some X, some O, some O, none, none, some X, some O, some X] O X [4, 5] rfl rfl (List.cons_ne_nil _ _)]
  show pickBest [(4, (minimaxL 1 [some X, some X, some O, some O, some O, none, some X, some O, some X] X O).2), (5, (minimaxL 1 [some X, some X, some O, some O, none, some O, some X, some O, some X] X O).2)] O = (some 4, 0)
  rw [mmv_0506, mmv_0507]
  rfl

theorem mmv_0501 : minimaxL 3 [some X, some X, some O, some O, none, none, some X, some O, none] X O = (some 8, 0) := by
  rw [minimaxL_succ 2 [some X, some X, some O, some O, none, none, some X, some O, none] X O [4, 5, 8] rfl rfl (List.cons_ne_nil _ _)]
  show pickBest [(4, (minimaxL 2 [some X, some X, some O, some O, some X, none, some X, some O, none] O X).2), (5, (minimaxL 2 [some X, some X, some O, some O, none, some X, some X, some O, none] O X).2), (8, (minimaxL 2 [some X, some X, some O, some O, none, none, some X, some O, some X] O X).2)] X = (some 8, 0)
  rw [mmv_0502, mmv_0482, mmv_0505]
  rfl

theorem mmv_0509 : minimaxL 2 [some X, some X, some O, some O, some X, none, some X, none, some O] O X = (some 5, -1) := rfl

theorem mmv_0510 : minimaxL 2 [some X, some X, some O, some O, none, none, some X, some X, some O] O X = (some 5, -1) := rfl

theorem mmv_0508 : minimaxL 3 [some X, some X, some O, some O, none, none, some X, none, some O] X O = (some 5, 0) := by
  rw [minimaxL_succ 2 [some X, some X, some O, some O, none, none, some X, none, some O] X O [4, 5, 7] rfl rfl (List.cons_ne_nil _ _)]
  show pickBest [(4, (minimaxL 2 [some X, some X, some O, some O, some X, none, some X, none, some O] O X).2), (5, (minimaxL 2 [some X, some X, some O, some O, none, some X, some X, none, some O] O X).2), (7, (minimaxL 2 [some X, some X, some O, some O, none, none, some X, some X, some O] O X).2)] X = (some 5, 0)
  rw [mmv_0509, mmv_0489, mmv_0510]
  rfl

theorem mmv_0493 : minimaxL 4 [some X, some X, some O, some O, none, none, some X, none, none] O X = (some 5, -1) := by
  rw [minimaxL_succ 3 [some X, some X, some O, some O, none, none, some X, none, none] O X [4, 5, 7, 8] rfl rfl (List.cons_ne_nil _ _)]
  show pickBest [(4, (minimaxL 3 [some X, some X, some O, some O, some O, none, some X, none, none] X O).2), (5, (minimaxL 3 [some X, some X, some O, some O, none, some O, some X, none, none] X O).2), (7, (minimaxL 3 [some X, some X, some O, some O, none, none, some X, some O, none] X O).2), (8, (minimaxL 3 [some X, some X, some O, some O, none, none, some X, none, some O] X O).2)] O = (some 5, -1)
  rw [mmv_0494, mmv_0497, mmv_0501, mmv_0508]
  rfl

theorem mmv_0513 : minimaxL 2 [some X, some X, some O, some O, some O, none, none, some X, some X] O X = (some 6, -1) := rfl

theorem mmv_0512 : minimaxL 3 [some X, some X, some O, some O, some O, none, none, some X, none] X O = (some 8, -1) := by
  rw [minimaxL_succ 2 [some X, some X, some O, some O, some O, none, none, some X, none] X O [5, 6, 8] rfl rfl (List.cons_ne_nil _ _)]
  show pickBest [(5, (minimaxL 2 [some X, some X, some O, some O, some O, some X, none, some X, none] O X).2), (6, (minimaxL 2 [some X, some X, some O, some O, some O, none, some X, some X, none] O X).2), (8, (minimaxL 2 [some X, some X, some O, some O, some O, none, none, some X, some X] O X).2)] X = (some 8, -1)
  rw [mmv_0470, mmv_0495, mmv_0513]
  rfl

theorem mmv_0514 : minimaxL 3 [some X, some X, some O, some O, none, some O, none, some X, none] X O = (some 4, 1) := rfl

theorem mmv_0515 : minimaxL 3 [some X, some X, some O, some O, none, none, some O, some X, none] X O = (some 4, 1) := rfl

theorem mmv_0516 : minimaxL 3 [some X, some X, some O, some O, none, none, none, some X, some O] X O = (some 4, 1) := rfl

theorem mmv_0511 : minimaxL 4 [some X, some X, some O, some O, none, none, none, some X, none] O X = (some 4, -1) := by
  rw [minimaxL_succ 3 [some X, some X, some O, some O, none, none, none, some X, none] O X [4, 5, 6, 8] rfl rfl (List.cons_ne_nil _ _)]
  show pickBest [(4, (minimaxL 3 [some X, some X, some O, some O, some O, none, none, some X, none] X O).2), (5, (minimaxL 3 [some X, some X, some O, some O, none, some O, none, some X, none] X O).2), (6, (minimaxL 3 [some X, some X, some O, some O, none, none, some O, some X, none] X O).2), (8, (minimaxL 3 [some X, some X, some O, some O, none, none, none, some X, some O] X O).2)] O = (some 4, -1)
  rw [mmv_0512, mmv_0514, mmv_0515, mmv_0516]
  rfl

theorem mmv_0518 : minimaxL 3 [some X, some X, some O, some O, some O, none, none, none, some X] X O = (some 7, -1) := by
  rw [minimaxL_succ 2 [some X, some X, some O, some O, some O, none, none, none, some X] X O [5, 6, 7] rfl rfl (List.cons_ne_nil _ _)]
  show pickBest [(5, (minimaxL 2 [some X, some X, some O, some O, some O, some X, none, none, some X] O X).2), (6, (minimaxL 2 [some X, some X, some O, some O, some O, none, some X, none, some X] O X).2), (7, (minimaxL 2 [some X, some X, some O, some O, some O, none, none, some X, some X] O X).2)] X = (some 7, -1)
  rw [mmv_0471, mmv_0496, mmv_0513]
  rfl

theorem mmv_0519 : minimaxL 3 [some X, some X, some O, some O, none, some O, none, none, some X] X O = (some 4, 1) := rfl

theorem mmv_0520 : minimaxL 3 [some X, some X, some O, some O, none, none, some O, none, some X] X O = (some 4, 1) := rfl

theorem mmv_0521 : minimaxL 3 [some X, some X, some O, some O, none, none, none, some O, some X] X O = (some 4, 1) := rfl

theorem mmv_0517 : minimaxL 4 [some X, some X, some O, some O, none, none, none, none, some X] O X = (some 4, -1) := by
  rw [minimaxL_succ 3 [some X, some X, some O, some O, none, none, none, none, some X] O X [4, 5, 6, 7] rfl rfl (List.cons_ne_nil _ _)]
  show pickBest [(4, (minimaxL 3 [some X, some X, some O, some O, some O, none, none, none, some X] X O).2), (5, (minimaxL 3 [some X, some X, some O, some O, none, some O, none, none, some X] X O).2), (6, (minimaxL 3 [some X, some X, some O, some O, none, none, some O, none, some X] X O).2), (7, (minimaxL 3 [some X, some X, some O, some O, none, none, none, some O, some X] X O).2)] O = (some 4, -1)
  rw [mmv_0518, mmv_0519, mmv_0520, mmv_0521]
  rfl

theorem mmv_0457 : minimaxL 5 [some X, some X, some O, some O, none, none, none, none, none] X O = (some 4, 1) := by
  rw [minimaxL_succ 4 [some X, some X, some O, some O, none, none, none, none, none] X O [4, 5, 6, 7, 8] rfl rfl (List.cons_ne_nil _ _)]
  show pickBest [(4, (minimaxL 4 [some X, some X, some O, some O, some X, none, none, none, none] O X).2), (5, (minimaxL 4 [some X, some X, some O, some O, none, some X, none, none, none] O X).2), (6, (minimaxL 4 [some X, some X, some O, some O, none, none, some X, none, none] O X).2), (7, (minimaxL 4 [some X, some X, some O, some O, none, none, none, some X, none] O X).2), (8, (minimaxL 4 [some X, some X, some O, some O, none, none, none, none, some X] O X).2)] X = (some 4, 1)
  rw [mmv_0458, mmv_0463, mmv_0493, mmv_0511, mmv_0517]
  rfl

theorem mmv_0523 : minimaxL 4 [some X, some X, some O, some X, some O, none, none, none, none] O X = (some 6, -1) := rfl

theorem mmv_0524 : minimaxL 4 [some X, some X, some O, none, some O, some X, none, none, none] O X = (some 6, -1) := rfl

theorem mmv_0526 : minimaxL 3 [some X, some X, some O, none, some O, some O, some X, none, none] X O = (some 3, 1) := rfl

theorem mmv_0527 : minimaxL 3 [some X, some X, some O, none, some O, none, some X, some O, none] X O = (some 3, 1) := rfl

theorem mmv_0528 : minimaxL 3 [some X, some X, some O, none, some O, none, some X, none, some O] X O = (some 3, 1) := rfl

theorem mmv_0525 : minimaxL 4 [some X, some X, some O, none, some O, none, some X, none, none] O X = (some 3, 0) := by
  rw [minimaxL_succ 3 [some X, some X, some O, none, some O, none, some X, none, none] O X [3, 5, 7, 8] rfl rfl (List.cons_ne_nil _ _)]
  show pickBest [(3, (minimaxL 3 [some X, some X, some O, some O, some O, none, some X, none, none] X O).2), (5, (minimaxL 3 [some X, some X, some O, none, some O, some O, some X, none, none] X O).2), (7, (minimaxL 3 [some X, some X, some O, none, some O, none, some X, some O, none] X O).2), (8, (minimaxL 3 [some X, some X, some O, none, some O, none, some X, none, some O] X O).2)] O = (some 3, 0)
  rw [mmv_0494, mmv_0526, mmv_0527, mmv_0528]
  rfl

theorem mmv_0529 : minimaxL 4 [some X, some X, some O, none, some O, none, none, some X, none] O X = (some 6, -1) := rfl

theorem mmv_0530 : minimaxL 4 [some X, some X, some O, none, some O, none, none, none, some X] O X = (some 6, -1) := rfl

theorem mmv_0522 : minimaxL 5 [some X, some X, some O, none, some O, none, none, none, none] X O = (some 6, 0) := by
  rw [minimaxL_succ 4 [some X, some X, some O, none, some O, none, none, none, none] X O [3, 5, 6, 7, 8] rfl rfl (List.cons_ne_nil _ _)]
  show pickBest [(3, (minimaxL 4 [some X, some X, some O, some X, some O, none, none, none, none] O X).2), (5, (minimaxL 4 [some X, some X, some O, none, some O, some X, none, none, none] O X).2), (6, (minimaxL 4 [some X, some X, some O, none, some O, none, some X, none, none] O X).2), (7, (minimaxL 4 [some X, some X, some O, none, some O, none, none, some X, none] O X).2), (8, (minimaxL 4 [some X, some X, some O, none, some O, none, none, none, some X] O X).2)] X = (some 6, 0)
  rw [mmv_0523, mmv_0524, mmv_0525, mmv_0529, mmv_0530]
  rfl

theorem mmv_0532 : minimaxL 4 [some X, some X, some O, some X, none, some O, none, none, none] O X = (some 8, -1) := rfl

theorem mmv_0533 : minimaxL 4 [some X, some X, some O, none, some X, some O, none, none, none] O X = (some 8, -1) := rfl

theorem mmv_0534 : minimaxL 4 [some X, some X, some O, none, none, some O, some X, none, none] O X = (some 8, -1) := rfl

theorem mmv_0535 : minimaxL 4 [some X, some X, some O, none, none, some O, none, some X, none] O X = (some 8, -1) := rfl

theorem mmv_0538 : minimaxL 2 [some X, some X, some O, some X, some O, some O, none, none, some X] O X = (some 6, -1) := rfl

theorem mmv_0539 : minimaxL 2 [some X, some X, some O, none, some O, some O, some X, none, some X] O X = (some 3, -1) := rfl

theorem mmv_0540 : minimaxL 2 [some X, some X, some O, none, some O, some O, none, some X, some X] O X = (some 6, -1) := rfl

theorem mmv_0537 : minimaxL 3 [some X, some X, some O, none, some O, some O, none, none, some X] X O = (some 7, -1) := by
  rw [minimaxL_succ 2 [some X, some X, some O, none, some O, some O, none, none, some X] X O [3, 6, 7] rfl rfl (List.cons_ne_nil _ _)]
  show pickBest [(3, (minimaxL 2 [some X, some X, some O, some X, some O, some O, none, none, some X] O X).2), (6, (minimaxL 2 [some X, some X, some O, none, some O, some O, some X, none, some X] O X).2), (7, (minimaxL 2 [some X, some X, some O, none, some O, some O, none, some X, some X] O X).2)] X = (some 7, -1)
  rw [mmv_0538, mmv_0539, mmv_0540]
  rfl

theorem mmv_0541 : minimaxL 3 [some X, some X, some O, none, none, some O, some O, none, some X] X O = (some 4, 1) := rfl

theorem mmv_0542 : minimaxL 3 [some X, some X, some O, none, none, some O, none, some O, some X] X O = (some 4, 1) := rfl

theorem mmv_0536 : minimaxL 4 [some X, some X, some O, none, none, some O, none, none, some X] O X = (some 4, -1) := by
  rw [minimaxL_succ 3 [some X, some X, some O, none, none, some O, none, none, some X] O X [3, 4, 6, 7] rfl rfl (List.cons_ne_nil _ _)]
  show pickBest [(3, (minimaxL 3 [some X, some X, some O, some O, none, some O, none, none, some X] X O).2), (4, (minimaxL 3 [some X, some X, some O, none, some O, some O, none, none, some X] X O).2), (6, (minimaxL 3 [some X, some X, some O, none, none, some O, some O, none, some X] X O).2), (7, (minimaxL 3 [some X, some X, some O, none, none, some O, none, some O, some X] X O).2)] O = (some 4, -1)
  rw [mmv_0519, mmv_0537, mmv_0541, mmv_0542]
  rfl

theorem mmv_0531 : minimaxL 5 [some X, some X, some O, none, none, some O, none, none, none] X O = (some 8, -1) := by
  rw [minimaxL_succ 4 [some X, some X, some O, none, none, some O, none, none, none] X O [3, 4, 6, 7, 8] rfl rfl (List.cons_ne_nil _ _)]
  show pickBest [(3, (minimaxL 4 [some X, some X, some O, some X, none, some O, none, none, none] O X).2), (4, (minimaxL 4 [some X, some X, some O, none, some X, some O, none, none, none] O X).2), (6, (minimaxL 4 [some X, some X, some O, none, none, some O, some X, none, none] O X).2), (7, (minimaxL 4 [some X, some X, some O, none, none, some O, none, some X, none] O X).2), (8, (minimaxL 4 [some X, some X, some O, none, none, some O, none, none, some X] O X).2)] X = (some 8, -1)
  rw [mmv_0532, mmv_0533, mmv_0534, mmv_0535, mmv_0536]
  rfl

theorem mmv_0544 : minimaxL 4 [some X, some X, some O, some X, none, none, some O, none, none] O X = (some 4, -1) := rfl

theorem mmv_0546 : minimaxL 3 [some X, some X, some O, none, some X, some O, some O, none, none] X O = (some 8, 1) := rfl

theorem mmv_0547 : minimaxL 3 [some X, some X, some O, none, some X, none, some O, some O, none] X O = (some 8, 1) := rfl

theorem mmv_0548 : minimaxL 3 [some X, some X, some O, none, some X, none, some O, none, some O] X O = (some 7, 1) := rfl

theorem mmv_0545 : minimaxL 4 [some X, some X, some O, none, some X, none, some O, none, none] O X = (some 3, 1) := by
  rw [minimaxL_succ 3 [some X, some X, some O, none, some X, none, some O, none, none] O X [3, 5, 7, 8] rfl rfl (List.cons_ne_nil _ _)]
  show pickBest [(3, (minimaxL 3 [some X, some X, some O, some O, some X, none, some O, none, none] X O).2), (5, (minimaxL 3 [some X, some X, some O, none, some X, some O, some O, none, none] X O).2), (7, (minimaxL 3 [some X, some X, some O, none, some X, none, some O, some O, none] X O).2), (8, (minimaxL 3 [some X, some X, some O, none, some X, none, some O, none, some O] X O).2)] O = (some 3, 1)
  rw [mmv_0460, mmv_0546, mmv_0547, mmv_0548]
  rfl

theorem mmv_0549 : minimaxL 4 [some X, some X, some O, none, none, some X, some O, none, none] O X = (some 4, -1) := rfl

theorem mmv_0550 : minimaxL 4 [some X, some X, some O, none, none, none, some O, some X, none] O X = (some 4, -1) := rfl

theorem mmv_0551 : minimaxL 4 [some X, some X, some O, none, none, none, some O, none, some X] O X = (some 4, -1) := rfl

theorem mmv_0543 : minimaxL 5 [some X, some X, some O, none, none, none, some O, none, none] X O = (some 4, 1) := by
  rw [minimaxL_succ 4 [some X, some X, some O, none, none, none, some O, none, none] X O [3, 4, 5, 7, 8] rfl rfl (List.cons_ne_nil _ _)]
  show pickBest [(3, (minimaxL 4 [some X, some X, some O, some X, none, none, some O, none, none] O X).2), (4, (minimaxL 4 [some X, some X, some O, none, some X, none, some O, none, none] O X).2), (5, (minimaxL 4 [some X, some X, some O, none, none, some X, some O, none, none] O X).2), (7, (minimaxL 4 [some X, some X, some O, none, none, none, some O, some X, none] O X).2), (8, (minimaxL 4 [some X, some X, some O, none, none, none, some O, none, some X] O X).2)] X = (some 4, 1)
  rw [mmv_0544, mmv_0545, mmv_0549, mmv_0550, mmv_0551]
  rfl

theorem mmv_0554 : minimaxL 3 [some X, some X, some O, some X, some O, none, none, some O, none] X O = (some 6, 1) := rfl

theorem mmv_0555 : minimaxL 3 [some X, some X, some O, some X, none, some O, none, some O, none] X O = (some 6, 1) := rfl

theorem mmv_0557 : minimaxL 2 [some X, some X, some O, some X, some X, none, some O, some O, none] O X = (some 8, -1) := rfl

theorem mmv_0558 : minimaxL 2 [some X, some X, some O, some X, none, some X, some O, some O, none] O X = (some 4, -1) := rfl

theorem mmv_0559 : minimaxL 2 [some X, some X, some O, some X, none, none, some O, some O, some X] O X = (some 4, -1) := rfl

theorem mmv_0556 : minimaxL 3 [some X, some X, some O, some X, none, none, some O, some O, none] X O = (some 8, -1) := by
  rw [minimaxL_succ 2 [some X, some X, some O, some X, none, none, some O, some O, none] X O [4, 5, 8] rfl rfl (List.cons_ne_nil _ _)]
  show pickBest [(4, (minimaxL 2 [some X, some X, some O, some X, some X, none, some O, some O, none] O X).2), (5, (minimaxL 2 [some X, some X, some O, some X, none, some X, some O, some O, none] O X).2), (8, (minimaxL 2 [some X, some X, some O, some X, none, none, some O, some O, some X] O X).2)] X = (some 8, -1)
  rw [mmv_0557, mmv_0558, mmv_0559]
  rfl

theorem mmv_0560 : minimaxL 3 [some X, some X, some O, some X, none, none, none, some O, some O] X O = (some 6, 1) := rfl

theorem mmv_0553 : minimaxL 4 [some X, some X, some O, some X, none, none, none, some O, none] O X = (some 6, -1) := by
  rw [minimaxL_succ 3 [some X, some X, some O, some X, none, none, none, some O, none] O X [4, 5, 6, 8] rfl rfl (List.cons_ne_nil _ _)]
  show pickBest [(4, (minimaxL 3 [some X, some X, some O, some X, some O, none, none, some O, none] X O).2), (5, (minimaxL 3 [some X, some X, some O, some X, none, some O, none, some O, none] X O).2), (6, (minimaxL 3 [some X, some X, some O, some X, none, none, some O, some O, none] X O).2), (8, (minimaxL 3 [some X, some X, some O, some X, none, none, none, some O, some O] X O).2)] O = (some 6, -1)
  rw [mmv_0554, mmv_0555, mmv_0556, mmv_0560]
  rfl

theorem mmv_0562 : minimaxL 3 [some X, some X, some O, none, some X, some O, none, some O, none] X O = (some 8, 1) := rfl

theorem mmv_0564 : minimaxL 2 [some X, some X, some O, some X, some X, none, none, some O, some O] O X = (some 5, -1) := rfl

theorem mmv_0565 : minimaxL 2 [some X, some X, some O, none, some X, some X, none, some O, some O] O X = (some 6, -1) := rfl

theorem mmv_0566 : minimaxL 2 [some X, some X, some O, none, some X, none, some X, some O, some O] O X = (some 5, -1) := rfl

theorem mmv_0563 : minimaxL 3 [some X, some X, some O, none, some X, none, none, some O, some O] X O = (some 6, -1) := by
  rw [minimaxL_succ 2 [some X, some X, some O, none, some X, none, none, some O, some O] X O [3, 5, 6] rfl rfl (List.cons_ne_nil _ _)]
  show pickBest [(3, (minimaxL 2 [some X, some X, some O, some X, some X, none, none, some O, some O] O X).2), (5, (minimaxL 2 [some X, some X, some O, none, some X, some X, none, some O, some O] O X).2), (6, (minimaxL 2 [some X, some X, some O, none, some X, none, some X, some O, some O] O X).2)] X = (some 6, -1)
  rw [mmv_0564, mmv_0565, mmv_0566]
  rfl

theorem mmv_0561 : minimaxL 4 [some X, some X, some O, none, some X, none, none, some O, none] O X = (some 8, -1) := by
  rw [minimaxL_succ 3 [some X, some X, some O, none, some X, none, none, some O, none] O X [3, 5, 6, 8] rfl rfl (List.cons_ne_nil _ _)]
  show pickBest [(3, (minimaxL 3 [some X, some X, some O, some O, some X, none, none, some O, none] X O).2), (5, (minimaxL 3 [some X, some X, some O, none, some X, some O, none, some O, none] X O).2), (6, (minimaxL 3 [some X, some X, some O, none, some X, none, some O, some O, none] X O).2), (8, (minimaxL 3 [some X, some X, some O, none, some X, none, none, some O, some O] X O).2)] O = (some 8, -1)
  rw [mmv_0461, mmv_0562, mmv_0547, mmv_0563]
  rfl

theorem mmv_0569 : minimaxL 2 [some X, some X, some O, some X, some O, some X, none, some O, none] O X = (some 6, -1) := rfl

theorem mmv_0571 : minimaxL 1 [some X, some X, some O, none, some O, some X, some X, some O, some O] X O = (some 3, 1) := rfl

theorem mmv_0570 : minimaxL 2 [some X, some X, some O, none, some O, some X, some X, some O, none] O X = (some 3, 0) := by
  rw [minimaxL_succ 1 [some X, some X, some O, none, some O, some X, some X, some O, none] O X [3, 8] rfl rfl (List.cons_ne_nil _ _)]
  show pickBest [(3, (minimaxL 1 [some X, some X, some O, some O, some O, some X, some X, some O, none] X O).2), (8, (minimaxL 1 [some X, some X, some O, none, some O, some X, some X, some O, some O] X O).2)] O = (some 3, 0)
  rw [mmv_0466, mmv_0571]
  rfl

theorem mmv_0572 : minimaxL 2 [some X, some X, some O, none, some O, some X, none, some O, some X] O X = (some 6, -1) := rfl

theorem mmv_0568 : minimaxL 3 [some X, some X, some O, none, some O, some X, none, some O, none] X O = (some 6, 0) := by
  rw [minimaxL_succ 2 [some X, some X, some O, none, some O, some X, none, some O, none] X O [3, 6, 8] rfl rfl (List.cons_ne_nil _ _)]
  show pickBest [(3, (minimaxL 2 [some X, some X, some O, some X, some O, some X, none, some O, none] O X).2), (6, (minimaxL 2 [some X, some X, some O, none, some O, some X, some X, some O, none] O X).2), (8, (minimaxL 2 [some X, some X, some O, none, some O, some X, none, some O, some X] O X).2)] X = (some 6, 0)
  rw [mmv_0569, mmv_0570, mmv_0572]
  rfl

theorem mmv_0574 : minimaxL 2 [some X, some X, some O, none, some X, some X, some O, some O, none] O X = (some 8, -1) := rfl

theorem mmv_0575 : minimaxL 2 [some X, some X, some O, none, none, some X, some O, some O, some X] O X = (some 4, -1) := rfl

theorem mmv_0573 : minimaxL 3 [some X, some X, some O, none, none, some X, some O, some O, none] X O = (some 8, -1) := by
  rw [minimaxL_succ 2 [some X, some X, some O, none, none, some X, some O, some O, none] X O [3, 4, 8] rfl rfl (List.cons_ne_nil _ _)]
  show pickBest [(3, (minimaxL 2 [some X, some X, some O, some X, none, some X, some O, some O, none] O X).2), (4, (minimaxL 2 [some X, some X, some O, none, some X, some X, some O, some O, none] O X).2), (8, (minimaxL 2 [some X, some X, some O, none, none, some X, some O, some O, some X] O X).2)] X = (some 8, -1)
  rw [mmv_0558, mmv_0574, mmv_0575]
  rfl

theorem mmv_0577 : minimaxL 2 [some X, some X, some O, some X, none, some X, none, some O, some O] O X = (some 6, -1) := rfl

theorem mmv_0578 : minimaxL 2 [some X, some X, some O, none, none, some X, some X, some O, some O] O X = (some 3, 0) := by
  rw [minimaxL_succ 1 [some X, some X, some O, none, none, some X, some X, some O, some O] O X [3, 4] rfl rfl (List.cons_ne_nil _ _)]
  show pickBest [(3, (minimaxL 1 [some X, some X, some O, some O, none, some X, some X, some O, some O] X O).2), (4, (minimaxL 1 [some X, some X, some O, none, some O, some X, some X, some O, some O] X O).2)] O = (some 3, 0)
  rw [mmv_0483, mmv_0571]
  rfl

theorem mmv_0576 : minimaxL 3 [some X, some X, some O, none, none, some X, none, some O, some O] X O = (some 6, 0) := by
  rw [minimaxL_succ 2 [some X, some X, some O, none, none, some X, none, some O, some O] X O [3, 4, 6] rfl rfl (List.cons_ne_nil _ _)]
  show pickBest [(3, (minimaxL 2 [some X, some X, some O, some X, none, some X, none, some O, some O] O X).2), (4, (minimaxL 2 [some X, some X, some O, none, some X, some X, none, some O, some O] O X).2), (6, (minimaxL 2 [some X, some X, some O, none, none, some X, some X, some O, some O] O X).2)] X = (some 6, 0)
  rw [mmv_0577, mmv_0565, mmv_0578]
  rfl

theorem mmv_0567 : minimaxL 4 [some X, some X, some O, none, none, some X, none, some O, none] O X = (some 6, -1) := by
  rw [minimaxL_succ 3 [some X, some X, some O, none, none, some X, none, some O, none] O X [3, 4, 6, 8] rfl rfl (List.cons_ne_nil _ _)]
  show pickBest [(3, (minimaxL 3 [some X, some X, some O, some O, none, some X, none, some O, none] X O).2), (4, (minimaxL 3 [some X, some X, some O, none, some O, some X, none, some O, none] X O).2), (6, (minimaxL 3 [some X, some X, some O, none, none, some X, some O, some O, none] X O).2), (8, (minimaxL 3 [some X, some X, some O, none, none, some X, none, some O, some O] X O).2)] O = (some 6, -1)
  rw [mmv_0478, mmv_0568, mmv_0573, mmv_0576]
  rfl

theorem mmv_0580 : minimaxL 3 [some X, some X, some O, none, none, some O, some X, some O, none] X O = (some 3, 1) := rfl

theorem mmv_0581 : minimaxL 3 [some X, some X, some O, none, none, none, some X, some O, some O] X O = (some 3, 1) := rfl

theorem mmv_0579 : minimaxL 4 [some X, some X, some O, none, none, none, some X, some O, none] O X = (some 3, 0) := by
  rw [minimaxL_succ 3 [some X, some X, some O, none, none, none, some X, some O, none] O X [3, 4, 5, 8] rfl rfl (List.cons_ne_nil _ _)]
  show pickBest [(3, (minimaxL 3 [some X, some X, some O, some O, none, none, some X, some O, none] X O).2), (4, (minimaxL 3 [some X, some X, some O, none, some O, none, some X, some O, none] X O).2), (5, (minimaxL 3 [some X, some X, some O, none, none, some O, some X, some O, none] X O).2), (8, (minimaxL 3 [some X, some X, some O, none, none, none, some X, some O, some O] X O).2)] O = (some 3, 0)
  rw [mmv_0501, mmv_0527, mmv_0580, mmv_0581]
  rfl

theorem mmv_0584 : minimaxL 2 [some X, some X, some O, some X, some O, none, none, some O, some X] O X = (some 6, -1) := rfl

theorem mmv_0586 : minimaxL 1 [some X, some X, some O, none, some O, some O, some X, some O, some X] X O = (some 3, 1) := rfl

theorem mmv_0585 : minimaxL 2 [some X, some X, some O, none, some O, none, some X, some O, some X] O X = (some 3, 0) := by
  rw [minimaxL_succ 1 [some X, some X, some O, none, some O, none, some X, some O, some X] O X [3, 5] rfl rfl (List.cons_ne_nil _ _)]
  show pickBest [(3, (minimaxL 1 [some X, some X, some O, some O, some O, none, some X, some O, some X] X O).2), (5, (minimaxL 1 [some X, some X, some O, none, some O, some O, some X, some O, some X] X O).2)] O = (some 3, 0)
  rw [mmv_0506, mmv_0586]
  rfl

theorem mmv_0583 : minimaxL 3 [some X, some X, some O, none, some O, none, none, some O, some X] X O = (some 6, 0) := by
  rw [minimaxL_succ 2 [some X, some X, some O, none, some O, none, none, some O, some X] X O [3, 5, 6] rfl rfl (List.cons_ne_nil _ _)]
  show pickBest [(3, (minimaxL 2 [some X, some X, some O, some X, some O, none, none, some O, some X] O X).2), (5, (minimaxL 2 [some X, some X, some O, none, some O, some X, none, some O, some X] O X).2), (6, (minimaxL 2 [some X, some X, some O, none, some O, none, some X, some O, some X] O X).2)] X = (some 6, 0)
  rw [mmv_0584, mmv_0572, mmv_0585]
  rfl

theorem mmv_0587 : minimaxL 3 [some X, some X, some O, none, none, none, some O, some O, some X] X O = (some 4, 1) := rfl

theorem mmv_0582 : minimaxL 4 [some X, some X, some O, none, none, none, none, some O, some X] O X = (some 4, 0) := by
  rw [minimaxL_succ 3 [some X, some X, some O, none, none, none, none, some O, some X] O X [3, 4, 5, 6] rfl rfl (List.cons_ne_nil _ _)]
  show pickBest [(3, (minimaxL 3 [some X, some X, some O, some O, none, none, none, some O, some X] X O).2), (4, (minimaxL 3 [some X, some X, some O, none, some O, none, none, some O, some X] X O).2), (5, (minimaxL 3 [some X, some X, some O, none, none, some O, none, some O, some X] X O).2), (6, (minimaxL 3 [some X, some X, some O, none, none, none, some O, some O, some X] X O).2)] O = (some 4, 0)
  rw [mmv_0521, mmv_0583, mmv_0542, mmv_0587]
  rfl

theorem mmv_0552 : minimaxL 5 [some X, some X, some O, none, none, none, none, some O, none] X O = (some 8, 0) := by
  rw [minimaxL_succ 4 [some X, some X, some O, none, none, none, none, some O, none] X O [3, 4, 5, 6, 8] rfl rfl (List.cons_ne_nil _ _)]
  show pickBest [(3, (minimaxL 4 [some X, some X, some O, some X, none, none, none, some O, none] O X).2), (4, (minimaxL 4 [some X, some X, some O, none, some X, none, none, some O, none] O X).2), (5, (minimaxL 4 [some X, some X, some O, none, none, some X, none, some O, none] O X).2), (6, (minimaxL 4 [some X, some X, some O, none, none, none, some X, some O, none] O X).2), (8, (minimaxL 4 [some X, some X, some O, none, none, none, none, some O, some X] O X).2)] X = (some 8, 0)
  rw [mmv_0553, mmv_0561, mmv_0567, mmv_0579, mmv_0582]
  rfl

theorem mmv_0589 : minimaxL 4 [some X, some X, some O, some X, none, none, none, none, some O] O X = (some 5, -1) := rfl

theorem mmv_0590 : minimaxL 4 [some X, some X, some O, none, some X, none, none, none, some O] O X = (some 5, -1) := rfl

theorem mmv_0593 : minimaxL 2 [some X, some X, some O, some X, some O, some X, none, none, some O] O X = (some 6, -1) := rfl

theorem mmv_0594 : minimaxL 2 [some X, some X, some O, none, some O, some X, some X, none, some O] O X = (some 3, 0) := by
  rw [minimaxL_succ 1 [some X, some X, some O, none, some O, some X, some X, none, some O] O X [3, 7] rfl rfl (List.cons_ne_nil _ _)]
  show pickBest [(3, (minimaxL 1 [some X, some X, some O, some O, some O, some X, some X, none, some O] X O).2), (7, (minimaxL 1 [some X, some X, some O, none, some O, some X, some X, some O, some O] X O).2)] O = (some 3, 0)
  rw [mmv_0468, mmv_0571]
  rfl

theorem mmv_0595 : minimaxL 2 [some X, some X, some O, none, some O, some X, none, some X, some O] O X = (some 6, -1) := rfl

theorem mmv_0592 : minimaxL 3 [some X, some X, some O, none, some O, some X, none, none, some O] X O = (some 6, 0) := by
  rw [minimaxL_succ 2 [some X, some X, some O, none, some O, some X, none, none, some O] X O [3, 6, 7] rfl rfl (List.cons_ne_nil _ _)]
  show pickBest [(3, (minimaxL 2 [some X, some X, some O, some X, some O, some X, none, none, some O] O X).2), (6, (minimaxL 2 [some X, some X, some O, none, some O, some X, some X, none, some O] O X).2), (7, (minimaxL 2 [some X, some X, some O, none, some O, some X, none, some X, some O] O X).2)] X = (some 6, 0)
  rw [mmv_0593, mmv_0594, mmv_0595]
  rfl

theorem mmv_0597 : minimaxL 2 [some X, some X, some O, some X, none, some X, some O, none, some O] O X = (some 4, -1) := rfl

theorem mmv_0598 : minimaxL 2 [some X, some X, some O, none, some X, some X, some O, none, some O] O X = (some 7, -1) := rfl

theorem mmv_0599 : minimaxL 2 [some X, some X, some O, none, none, some X, some O, some X, some O] O X = (some 4, -1) := rfl

theorem mmv_0596 : minimaxL 3 [some X, some X, some O, none, none, some X, some O, none, some O] X O = (some 7, -1) := by
  rw [minimaxL_succ 2 [some X, some X, some O, none, none, some X, some O, none, some O] X O [3, 4, 7] rfl rfl (List.cons_ne_nil _ _)]
  show pickBest [(3, (minimaxL 2 [some X, some X, some O, some X, none, some X, some O, none, some O] O X).2), (4, (minimaxL 2 [some X, some X, some O, none, some X, some X, some O, none, some O] O X).2), (7, (minimaxL 2 [some X, some X, some O, none, none, some X, some O, some X, some O] O X).2)] X = (some 7, -1)
  rw [mmv_0597, mmv_0598, mmv_0599]
  rfl

theorem mmv_0591 : minimaxL 4 [some X, some X, some O, none, none, some X, none, none, some O] O X = (some 6, -1) := by
  rw [minimaxL_succ 3 [some X, some X, some O, none, none, some X, none, none, some O] O X [3, 4, 6, 7] rfl rfl (List.cons_ne_nil _ _)]
  show pickBest [(3, (minimaxL 3 [some X, some X, some O, some O, none, some X, none, none, some O] X O).2), (4, (minimaxL 3 [some X, some X, some O, none, some O, some X, none, none, some O] X O).2), (6, (minimaxL 3 [some X, some X, some O, none, none, some X, some O, none, some O] X O).2), (7, (minimaxL 3 [some X, some X, some O, none, none, some X, none, some O, some O] X O).2)] O = (some 6, -1)
  rw [mmv_0487, mmv_0592, mmv_0596, mmv_0576]
  rfl

theorem mmv_0600 : minimaxL 4 [some X, some X, some O, none, none, none, some X, none, some O] O X = (some 5, -1) := rfl

theorem mmv_0601 : minimaxL 4 [some X, some X, some O, none, none, none, none, some X, some O] O X = (some 5, -1) := rfl

theorem mmv_0588 : minimaxL 5 [some X, some X, some O, none, none, none, none, none, some O] X O = (some 7, -1) := by
  rw [minimaxL_succ 4 [some X, some X, some O, none, none, none, none, none, some O] X O [3, 4, 5, 6, 7] rfl rfl (List.cons_ne_nil _ _)]
  show pickBest [(3, (minimaxL 4 [some X, some X, some O, some X, none, none, none, none, some O] O X).2), (4, (minimaxL 4 [some X, some X, some O, none, some X, none, none, none, some O] O X).2), (5, (minimaxL 4 [some X, some X, some O, none, none, some X, none, none, some O] O X).2), (6, (minimaxL 4 [some X, some X, some O, none, none, none, some X, none, some O] O X).2), (7, (minimaxL 4 [some X, some X, some O, none, none, none, none, some X, some O] O X).2)] X = (some 7, -1)
  rw [mmv_0589, mmv_0590, mmv_0591, mmv_0600, mmv_0601]
  rfl

theorem mmv_0456 : minimaxL 6 [some X, some X, some O, none, none, none, none, none, none] O X = (some 5, -1) := by
  rw [minimaxL_succ 5 [some X, some X, some O, none, none, none, none, none, none] O X [3, 4, 5, 6, 7, 8] rfl rfl (List.cons_ne_nil _ _)]
  show pickBest [(3, (minimaxL 5 [some X, some X, some O, some O, none, none, none, none, none] X O).2), (4, (minimaxL 5 [some X, some X, some O, none, some O, none, none, none, none] X O).2), (5, (minimaxL 5 [some X, some X, some O, none, none, some O, none, none, none] X O).2), (6, (minimaxL 5 [some X, some X, some O, none, none, none, some O, none, none] X O).2), (7, (minimaxL 5 [some X, some X, some O, none, none, none, none, some O, none] X O).2), (8, (minimaxL 5 [some X, some X, some O, none, none, none, none, none, some O] X O).2)] O = (some 5, -1)
  rw [mmv_0457, mmv_0522, mmv_0531, mmv_0543, mmv_0552, mmv_0588]
  rfl

theorem mmv_0603 : minimaxL 5 [some X, none, some O, some X, some O, none, none, none, none] X O = (some 6, 1) := rfl

theorem mmv_0604 : minimaxL 5 [some X, none, some O, some X, none, some O, none, none, none] X O = (some 6, 1) := rfl

theorem mmv_0607 : minimaxL 3 [some X, none, some O, some X, some X, some O, some O, none, none] X O = (some 8, 1) := rfl

theorem mmv_0608 : minimaxL 3 [some X, none, some O, some X, some X, none, some O, some O, none] X O = (some 8, 1) := rfl

theorem mmv_0609 : minimaxL 3 [some X, none, some O, some X, some X, none, some O, none, some O] X O = (some 5, 1) := rfl

theorem mmv_0606 : minimaxL 4 [some X, none, some O, some X, some X, none, some O, none, none] O X = (some 1, 1) := by
  rw [minimaxL_succ 3 [some X, none, some O, some X, some X, none, some O, none, none] O X [1, 5, 7, 8] rfl rfl (List.cons_ne_nil _ _)]
  show pickBest [(1, (minimaxL 3 [some X, some O, some O, some X, some X, none, some O, none, none] X O).2), (5, (minimaxL 3 [some X, none, some O, some X, some X, some O, some O, none, none] X O).2), (7, (minimaxL 3 [some X, none, some O, some X, some X, none, some O, some O, none] X O).2), (8, (minimaxL 3 [some X, none, some O, some X, some X, none, some O, none, some O] X O).2)] O = (some 1, 1)
  rw [mmv_0185, mmv_0607, mmv_0608, mmv_0609]
  rfl

theorem mmv_0610 : minimaxL 4 [some X, none, some O, some X, none, some X, some O, none, none] O X = (some 4, -1) := rfl

theorem mmv_0611 : minimaxL 4 [some X, none, some O, some X, none, none, some O, some X, none] O X = (some 4, -1) := rfl

theorem mmv_0612 : minimaxL 4 [some X, none, some O, some X, none, none, some O, none, some X] O X = (some 4, -1) := rfl

theorem mmv_0605 : minimaxL 5 [some X, none, some O, some X, none, none, some O, none, none] X O = (some 4, 1) := by
  rw [minimaxL_succ 4 [some X, none, some O, some X, none, none, some O, none, none] X O [1, 4, 5, 7, 8] rfl rfl (List.cons_ne_nil _ _)]
  show pickBest [(1, (minimaxL 4 [some X, some X, some O, some X, none, none, some O, none, none] O X).2), (4, (minimaxL 4 [some X, none, some O, some X, some X, none, some O, none, none] O X).2), (5, (minimaxL 4 [some X, none, some O, some X, none, some X, some O, none, none] O X).2), (7, (minimaxL 4 [some X, none, some O, some X, none, none, some O, some X, none] O X).2), (8, (minimaxL 4 [some X, none, some O, some X, none, none, some O, none, some X] O X).2)] X = (some 4, 1)
  rw [mmv_0544, mmv_0606, mmv_0610, mmv_0611, mmv_0612]
  rfl

theorem mmv_0613 : minimaxL 5 [some X, none, some O, some X, none, none, none, some O, none] X O = (some 6, 1) := rfl

theorem mmv_0614 : minimaxL 5 [some X, none, some O, some X, none, none, none, none, some O] X O = (some 6, 1) := rfl

theorem mmv_0602 : minimaxL 6 [some X, none, some O, some X, none, none, none, none, none] O X = (some 1, 1) := by
  rw [minimaxL_succ 5 [some X, none, some O, some X, none, none, none, none, none] O X [1, 4, 5, 6, 7, 8] rfl rfl (List.cons_ne_nil _ _)]
  show pickBest [(1, (minimaxL 5 [some X, some O, some O, some X, none, none, none, none, none] X O).2), (4, (minimaxL 5 [some X, none, some O, some X, some O, none, none, none, none] X O).2), (5, (minimaxL 5 [some X, none, some O, some X, none, some O, none, none, none] X O).2), (6, (minimaxL 5 [some X, none, some O, some X, none, none, some O, none, none] X O).2), (7, (minimaxL 5 [some X, none, some O, some X, none, none, none, some O, none] X O).2), (8, (minimaxL 5 [some X, none, some O, some X, none, none, none, none, some O] X O).2)] O = (some 1, 1)
  rw [mmv_0180, mmv_0603, mmv_0604, mmv_0605, mmv_0613, mmv_0614]
  rfl

theorem mmv_0616 : minimaxL 5 [some X, none, some O, some O, some X, none, none, none, none] X O = (some 8, 1) := rfl

theorem mmv_0617 : minimaxL 5 [some X, none, some O, none, some X, some O, none, none, none] X O = (some 8, 1) := rfl

theorem mmv_0618 : minimaxL 5 [some X, none, some O, none, some X, none, some O, none, none] X O = (some 8, 1) := rfl

theorem mmv_0619 : minimaxL 5 [some X, none, some O, none, some X, none, none, some O, none] X O = (some 8, 1) := rfl

theorem mmv_0621 : minimaxL 4 [some X, none, some O, some X, some X, none, none, none, some O] O X = (some 5, -1) := rfl

theorem mmv_0625 : minimaxL 1 [some X, none, some O, some O, some X, some X, some X, some O, some O] X O = (some 1, 0) := by
  rw [minimaxL_succ 0 [some X, none, some O, some O, some X, some X, some X, some O, some O] X O [1] rfl rfl (List.cons_ne_nil _ _)]
  show pickBest [(1, (minimaxL 0 [some X, some X, some O, some O, some X, some X, some X, some O, some O] O X).2)] X = (some 1, 0)
  rw [mmv_0481]
  rfl

theorem mmv_0624 : minimaxL 2 [some X, none, some O, some O, some X, some X, some X, none, some O] O X = (some 1, 0) := by
  rw [minimaxL_succ 1 [some X, none, some O, some O, some X, some X, some X, none, some O] O X [1, 7] rfl rfl (List.cons_ne_nil _ _)]
  show pickBest [(1, (minimaxL 1 [some X, some O, some O, some O, some X, some X, some X, none, some O] X O).2), (7, (minimaxL 1 [some X, none, some O, some O, some X, some X, some X, some O, some O] X O).2)] O = (some 1, 0)
  rw [mmv_0238, mmv_0625]
  rfl

theorem mmv_0627 : minimaxL 1 [some X, none, some O, some O, some X, some X, some O, some X, some O] X O = (some 1, 1) := rfl

theorem mmv_0626 : minimaxL 2 [some X, none, some O, some O, some X, some X, none, some X, some O] O X = (some 1, 0) := by
  rw [minimaxL_succ 1 [some X, none, some O, some O, some X, some X, none, some X, some O] O X [1, 6] rfl rfl (List.cons_ne_nil _ _)]
  show pickBest [(1, (minimaxL 1 [some X, some O, some O, some O, some X, some X, none, some X, some O] X O).2), (6, (minimaxL 1 [some X, none, some O, some O, some X, some X, some O, some X, some O] X O).2)] O = (some 1, 0)
  rw [mmv_0242, mmv_0627]
  rfl

theorem mmv_0623 : minimaxL 3 [some X, none, some O, some O, some X, some X, none, none, some O] X O = (some 7, 0) := by
  rw [minimaxL_succ 2 [some X, none, some O, some O, some X, some X, none, none, some O] X O [1, 6, 7] rfl rfl (List.cons_ne_nil _ _)]
  show pickBest [(1, (minimaxL 2 [some X, some X, some O, some O, some X, some X, none, none, some O] O X).2), (6, (minimaxL 2 [some X, none, some O, some O, some X, some X, some X, none, some O] O X).2), (7, (minimaxL 2 [some X, none, some O, some O, some X, some X, none, some X, some O] O X).2)] X = (some 7, 0)
  rw [mmv_0488, mmv_0624, mmv_0626]
  rfl

theorem mmv_0628 : minimaxL 3 [some X, none, some O, none, some X, some X, some O, none, some O] X O = (some 3, 1) := rfl

theorem mmv_0629 : minimaxL 3 [some X, none, some O, none, some X, some X, none, some O, some O] X O = (some 3, 1) := rfl

theorem mmv_0622 : minimaxL 4 [some X, none, some O, none, some X, some X, none, none, some O] O X = (some 3, 0) := by
  rw [minimaxL_succ 3 [some X, none, some O, none, some X, some X, none, none, some O] O X [1, 3, 6, 7] rfl rfl (List.cons_ne_nil _ _)]
  show pickBest [(1, (minimaxL 3 [some X, some O, some O, none, some X, some X, none, none, some O] X O).2), (3, (minimaxL 3 [some X, none, some O, some O, some X, some X, none, none, some O] X O).2), (6, (minimaxL 3 [some X, none, some O, none, some X, some X, some O, none, some O] X O).2), (7, (minimaxL 3 [some X, none, some O, none, some X, some X, none, some O, some O] X O).2)] O = (some 3, 0)
  rw [mmv_0235, mmv_0623, mmv_0628, mmv_0629]
  rfl

theorem mmv_0630 : minimaxL 4 [some X, none, some O, none, some X, none, some X, none, some O] O X = (some 5, -1) := rfl

theorem mmv_0631 : minimaxL 4 [some X, none, some O, none, some X, none, none, some X, some O] O X = (some 5, -1) := rfl

theorem mmv_0620 : minimaxL 5 [some X, none, some O, none, some X, none, none, none, some O] X O = (some 5, 0) := by
  rw [minimaxL_succ 4 [some X, none, some O, none, some X, none, none, none, some O] X O [1, 3, 5, 6, 7] rfl rfl (List.cons_ne_nil _ _)]
  show pickBest [(1, (minimaxL 4 [some X, some X, some O, none, some X, none, none, none, some O] O X).2), (3, (minimaxL 4 [some X, none, some O, some X, some X, none, none, none, some O] O X).2), (5, (minimaxL 4 [some X, none, some O, none, some X, some X, none, none, some O] O X).2), (6, (minimaxL 4 [some X, none, some O, none, some X, none, some X, none, some O] O X).2), (7, (minimaxL 4 [some X, none, some O, none, some X, none, none, some X, some O] O X).2)] X = (some 5, 0)
  rw [mmv_0590, mmv_0621, mmv_0622, mmv_0630, mmv_0631]
  rfl

theorem mmv_0615 : minimaxL 6 [some X, none, some O, none, some X, none, none, none, none] O X = (some 8, 0) := by
  rw [minimaxL_succ 5 [some X, none, some O, none, some X, none, none, none, none] O X [1, 3, 5, 6, 7, 8] rfl rfl (List.cons_ne_nil _ _)]
  show pickBest [(1, (minimaxL 5 [some X, some O, some O, none, some X, none, none, none, none] X O).2), (3, (minimaxL 5 [some X, none, some O, some O, some X, none, none, none, none] X O).2), (5, (minimaxL 5 [some X, none, some O, none, some X, some O, none, none, none] X O).2), (6, (minimaxL 5 [some X, none, some O, none, some X, none, some O, none, none] X O).2), (7, (minimaxL 5 [some X, none, some O, none, some X, none, none, some O, none] X O).2), (8, (minimaxL 5 [some X, none, some O, none, some X, none, none, none, some O] X O).2)] O = (some 8, 0)
  rw [mmv_0224, mmv_0616, mmv_0617, mmv_0618, mmv_0619, mmv_0620]
  rfl

theorem mmv_0635 : minimaxL 3 [some X, none, some O, some O, some X, some X, some O, none, none] X O = (some 8, 1) := rfl

theorem mmv_0636 : minimaxL 3 [some X, none, some O, some O, some X, some X, none, some O, none] X O = (some 8, 1) := rfl

theorem mmv_0634 : minimaxL 4 [some X, none, some O, some O, some X, some X, none, none, none] O X = (some 8, 0) := by
  rw [minimaxL_succ 3 [some X, none, some O, some O, some X, some X, none, none, none] O X [1, 6, 7, 8] rfl rfl (List.cons_ne_nil _ _)]
  show pickBest [(1, (minimaxL 3 [some X, some O, some O, some O, some X, some X, none, none, none] X O).2), (6, (minimaxL 3 [some X, none, some O, some O, some X, some X, some O, none, none] X O).2), (7, (minimaxL 3 [some X, none, some O, some O, some X, some X, none, some O, none] X O).2), (8, (minimaxL 3 [some X, none, some O, some O, some X, some X, none, none, some O] X O).2)] O = (some 8, 0)
  rw [mmv_0273, mmv_0635, mmv_0636, mmv_0623]
  rfl

theorem mmv_0640 : minimaxL 1 [some X, none, some O, some O, some O, some X, some X, some X, some O] X O = (some 1, 0) := by
  rw [minimaxL_succ 0 [some X, none, some O, some O, some O, some X, some X, some X, some O] X O [1] rfl rfl (List.cons_ne_nil _ _)]
  show pickBest [(1, (minimaxL 0 [some X, some X, some O, some O, some O, some X, some X, some X, some O] O X).2)] X = (some 1, 0)
  rw [mmv_0469]
  rfl

theorem mmv_0639 : minimaxL 2 [some X, none, some O, some O, some O, some X, some X, some X, none] O X = (some 8, 0) := by
  rw [minimaxL_succ 1 [some X, none, some O, some O, some O, some X, some X, some X, none] O X [1, 8] rfl rfl (List.cons_ne_nil _ _)]
  show pickBest [(1, (minimaxL 1 [some X, some O, some O, some O, some O, some X, some X, some X, none] X O).2), (8, (minimaxL 1 [some X, none, some O, some O, some O, some X, some X, some X, some O] X O).2)] O = (some 8, 0)
  rw [mmv_0281, mmv_0640]
  rfl

theorem mmv_0642 : minimaxL 1 [some X, none, some O, some O, some O, some X, some X, some O, some X] X O = (some 1, 0) := by
  rw [minimaxL_succ 0 [some X, none, some O, some O, some O, some X, some X, some O, some X] X O [1] rfl rfl (List.cons_ne_nil _ _)]
  show pickBest [(1, (minimaxL 0 [some X, some X, some O, some O, some O, some X, some X, some O, some X] O X).2)] X = (some 1, 0)
  rw [mmv_0467]
  rfl

theorem mmv_0641 : minimaxL 2 [some X, none, some O, some O, some O, some X, some X, none, some X] O X = (some 7, 0) := by
  rw [minimaxL_succ 1 [some X, none, some O, some O, some O, some X, some X, none, some X] O X [1, 7] rfl rfl (List.cons_ne_nil _ _)]
  show pickBest [(1, (minimaxL 1 [some X, some O, some O, some O, some O, some X, some X, none, some X] X O).2), (7, (minimaxL 1 [some X, none, some O, some O, some O, some X, some X, some O, some X] X O).2)] O = (some 7, 0)
  rw [mmv_0284, mmv_0642]
  rfl

theorem mmv_0638 : minimaxL 3 [some X, none, some O, some O, some O, some X, some X, none, none] X O = (some 8, 0) := by
  rw [minimaxL_succ 2 [some X, none, some O, some O, some O, some X, some X, none, none] X O [1, 7, 8] rfl rfl (List.cons_ne_nil _ _)]
  show pickBest [(1, (minimaxL 2 [some X, some X, some O, some O, some O, some X, some X, none, none] O X).2), (7, (minimaxL 2 [some X, none, some O, some O, some O, some X, some X, some X, none] O X).2), (8, (minimaxL 2 [some X, none, some O, some O, some O, some X, some X, none, some X] O X).2)] X = (some 8, 0)
  rw [mmv_0465, mmv_0639, mmv_0641]
  rfl

theorem mmv_0644 : minimaxL 2 [some X, none, some O, some O, some X, some X, some X, some O, none] O X = (some 8, 0) := by
  rw [minimaxL_succ 1 [some X, none, some O, some O, some X, some X, some X, some O, none] O X [1, 8] rfl rfl (List.cons_ne_nil _ _)]
  show pickBest [(1, (minimaxL 1 [some X, some O, some O, some O, some X, some X, some X, some O, none] X O).2), (8, (minimaxL 1 [some X, none, some O, some O, some X, some X, some X, some O, some O] X O).2)] O = (some 8, 0)
  rw [mmv_0279, mmv_0625]
  rfl

theorem mmv_0645 : minimaxL 2 [some X, none, some O, some O, none, some X, some X, some O, some X] O X = (some 4, 0) := by
  rw [minimaxL_succ 1 [some X, none, some O, some O, none, some X, some X, some O, some X] O X [1, 4] rfl rfl (List.cons_ne_nil _ _)]
  show pickBest [(1, (minimaxL 1 [some X, some O, some O, some O, none, some X, some X, some O, some X] X O).2), (4, (minimaxL 1 [some X, none, some O, some O, some O, some X, some X, some O, some X] X O).2)] O = (some 4, 0)
  rw [mmv_0285, mmv_0642]
  rfl

theorem mmv_0643 : minimaxL 3 [some X, none, some O, some O, none, some X, some X, some O, none] X O = (some 8, 0) := by
  rw [minimaxL_succ 2 [some X, none, some O, some O, none, some X, some X, some O, none] X O [1, 4, 8] rfl rfl (List.cons_ne_nil _ _)]
  show pickBest [(1, (minimaxL 2 [some X, some X, some O, some O, none, some X, some X, some O, none] O X).2), (4, (minimaxL 2 [some X, none, some O, some O, some X, some X, some X, some O, none] O X).2), (8, (minimaxL 2 [some X, none, some O, some O, none, some X, some X, some O, some X] O X).2)] X = (some 8, 0)
  rw [mmv_0482, mmv_0644, mmv_0645]
  rfl

theorem mmv_0647 : minimaxL 2 [some X, none, some O, some O, none, some X, some X, some X, some O] O X = (some 1, 0) := by
  rw [minimaxL_succ 1 [some X, none, some O, some O, none, some X, some X, some X, some O] O X [1, 4] rfl rfl (List.cons_ne_nil _ _)]
  show pickBest [(1, (minimaxL 1 [some X, some O, some O, some O, none, some X, some X, some X, some O] X O).2), (4, (minimaxL 1 [some X, none, some O, some O, some O, some X, some X, some X, some O] X O).2)] O = (some 1, 0)
  rw [mmv_0282, mmv_0640]
  rfl

theorem mmv_0646 : minimaxL 3 [some X, none, some O, some O, none, some X, some X, none, some O] X O = (some 7, 0) := by
  rw [minimaxL_succ 2 [some X, none, some O, some O, none, some X, some X, none, some O] X O [1, 4, 7] rfl rfl (List.cons_ne_nil _ _)]
  show pickBest [(1, (minimaxL 2 [some X, some X, some O, some O, none, some X, some X, none, some O] O X).2), (4, (minimaxL 2 [some X, none, some O, some O, some X, some X, some X, none, some O] O X).2), (7, (minimaxL 2 [some X, none, some O, some O, none, some X, some X, some X, some O] O X).2)] X = (some 7, 0)
  rw [mmv_0489, mmv_0624, mmv_0647]
  rfl

theorem mmv_0637 : minimaxL 4 [some X, none, some O, some O, none, some X, some X, none, none] O X = (some 4, 0) := by
  rw [minimaxL_succ 3 [some X, none, some O, some O, none, some X, some X, none, none] O X [1, 4, 7, 8] rfl rfl (List.cons_ne_nil _ _)]
  show pickBest [(1, (minimaxL 3 [some X, some O, some O, some O, none, some X, some X, none, none] X O).2), (4, (minimaxL 3 [some X, none, some O, some O, some O, some X, some X, none, none] X O).2), (7, (minimaxL 3 [some X, none, some O, some O, none, some X, some X, some O, none] X O).2), (8, (minimaxL 3 [some X, none, some O, some O, none, some X, some X, none, some O] X O).2)] O = (some 4, 0)
  rw [mmv_0277, mmv_0638, mmv_0643, mmv_0646]
  rfl

theorem mmv_0650 : minimaxL 2 [some X, none, some O, some O, some O, some X, none, some X, some X] O X = (some 6, -1) := rfl

theorem mmv_0649 : minimaxL 3 [some X, none, some O, some O, some O, some X, none, some X, none] X O = (some 6, 0) := by
  rw [minimaxL_succ 2 [some X, none, some O, some O, some O, some X, none, some X, none] X O [1, 6, 8] rfl rfl (List.cons_ne_nil _ _)]
  show pickBest [(1, (minimaxL 2 [some X, some X, some O, some O, some O, some X, none, some X, none] O X).2), (6, (minimaxL 2 [some X, none, some O, some O, some O, some X, some X, some X, none] O X).2), (8, (minimaxL 2 [some X, none, some O, some O, some O, some X, none, some X, some X] O X).2)] X = (some 6, 0)
  rw [mmv_0470, mmv_0639, mmv_0650]
  rfl

theorem mmv_0652 : minimaxL 2 [some X, none, some O, some O, some X, some X, some O, some X, none] O X = (some 1, 1) := by
  rw [minimaxL_succ 1 [some X, none, some O, some O, some X, some X, some O, some X, none] O X [1, 8] rfl rfl (List.cons_ne_nil _ _)]
  show pickBest [(1, (minimaxL 1 [some X, some O, some O, some O, some X, some X, some O, some X, none] X O).2), (8, (minimaxL 1 [some X, none, some O, some O, some X, some X, some O, some X, some O] X O).2)] O = (some 1, 1)
  rw [mmv_0292, mmv_0627]
  rfl

theorem mmv_0653 : minimaxL 2 [some X, none, some O, some O, none, some X, some O, some X, some X] O X = (some 4, -1) := rfl

theorem mmv_0651 : minimaxL 3 [some X, none, some O, some O, none, some X, some O, some X, none] X O = (some 4, 1) := by
  rw [minimaxL_succ 2 [some X, none, some O, some O, none, some X, some O, some X, none] X O [1, 4, 8] rfl rfl (List.cons_ne_nil _ _)]
  show pickBest [(1, (minimaxL 2 [some X, some X, some O, some O, none, some X, some O, some X, none] O X).2), (4, (minimaxL 2 [some X, none, some O, some O, some X, some X, some O, some X, none] O X).2), (8, (minimaxL 2 [some X, none, some O, some O, none, some X, some O, some X, some X] O X).2)] X = (some 4, 1)
  rw [mmv_0476, mmv_0652, mmv_0653]
  rfl

theorem mmv_0654 : minimaxL 3 [some X, none, some O, some O, none, some X, none, some X, some O] X O = (some 6, 0) := by
  rw [minimaxL_succ 2 [some X, none, some O, some O, none, some X, none, some X, some O] X O [1, 4, 6] rfl rfl (List.cons_ne_nil _ _)]
  show pickBest [(1, (minimaxL 2 [some X, some X, some O, some O, none, some X, none, some X, some O] O X).2), (4, (minimaxL 2 [some X, none, some O, some O, some X, some X, none, some X, some O] O X).2), (6, (minimaxL 2 [some X, none, some O, some O, none, some X, some X, some X, some O] O X).2)] X = (some 6, 0)
  rw [mmv_0490, mmv_0626, mmv_0647]
  rfl

theorem mmv_0648 : minimaxL 4 [some X, none, some O, some O, none, some X, none, some X, none] O X = (some 4, 0) := by
  rw [minimaxL_succ 3 [some X, none, some O, some O, none, some X, none, some X, none] O X [1, 4, 6, 8] rfl rfl (List.cons_ne_nil _ _)]
  show pickBest [(1, (minimaxL 3 [some X, some O, some O, some O, none, some X, none, some X, none] X O).2), (4, (minimaxL 3 [some X, none, some O, some O, some O, some X, none, some X, none] X O).2), (6, (minimaxL 3 [some X, none, some O, some O, none, some X, some O, some X, none] X O).2), (8, (minimaxL 3 [some X, none, some O, some O, none, some X, none, some X, some O] X O).2)] O = (some 4, 0)
  rw [mmv_0290, mmv_0649, mmv_0651, mmv_0654]
  rfl

theorem mmv_0656 : minimaxL 3 [some X, none, some O, some O, some O, some X, none, none, some X] X O = (some 6, 0) := by
  rw [minimaxL_succ 2 [some X, none, some O, some O, some O, some X, none, none, some X] X O [1, 6, 7] rfl rfl (List.cons_ne_nil _ _)]
  show pickBest [(1, (minimaxL 2 [some X, some X, some O, some O, some O, some X, none, none, some X] O X).2), (6, (minimaxL 2 [some X, none, some O, some O, some O, some X, some X, none, some X] O X).2), (7, (minimaxL 2 [some X, none, some O, some O, some O, some X, none, some X, some X] O X).2)] X = (some 6, 0)
  rw [mmv_0471, mmv_0641, mmv_0650]
  rfl

theorem mmv_0657 : minimaxL 3 [some X, none, some O, some O, none, some X, some O, none, some X] X O = (some 4, 1) := rfl

theorem mmv_0658 : minimaxL 3 [some X, none, some O, some O, none, some X, none, some O, some X] X O = (some 4, 1) := rfl

theorem mmv_0655 : minimaxL 4 [some X, none, some O, some O, none, some X, none, none, some X] O X = (some 4, 0) := by
  rw [minimaxL_succ 3 [some X, none, some O, some O, none, some X, none, none, some X] O X [1, 4, 6, 7] rfl rfl (List.cons_ne_nil _ _)]
  show pickBest [(1, (minimaxL 3 [some X, some O, some O, some O, none, some X, none, none, some X] X O).2), (4, (minimaxL 3 [some X, none, some O, some O, some O, some X, none, none, some X] X O).2), (6, (minimaxL 3 [some X, none, some O, some O, none, some X, some O, none, some X] X O).2), (7, (minimaxL 3 [some X, none, some O, some O, none, some X, none, some O, some X] X O).2)] O = (some 4, 0)
  rw [mmv_0309, mmv_0656, mmv_0657, mmv_0658]
  rfl

theorem mmv_0633 : minimaxL 5 [some X, none, some O, some O, none, some X, none, none, none] X O = (some 8, 0) := by
  rw [minimaxL_succ 4 [some X, none, some O, some O, none, some X, none, none, none] X O [1, 4, 6, 7, 8] rfl rfl (List.cons_ne_nil _ _)]
  show pickBest [(1, (minimaxL 4 [some X, some X, some O, some O, none, some X, none, none, none] O X).2), (4, (minimaxL 4 [some X, none, some O, some O, some X, some X, none, none, none] O X).2), (6, (minimaxL 4 [some X, none, some O, some O, none, some X, some X, none, none] O X).2), (7, (minimaxL 4 [some X, none, some O, some O, none, some X, none, some X, none] O X).2), (8, (minimaxL 4 [some X, none, some O, some O, none, some X, none, none, some X] O X).2)] X = (some 8, 0)
  rw [mmv_0463, mmv_0634, mmv_0637, mmv_0648, mmv_0655]
  rfl

theorem mmv_0660 : minimaxL 4 [some X, none, some O, some X, some O, some X, none, none, none] O X = (some 6, -1) := rfl

theorem mmv_0662 : minimaxL 3 [some X, none, some O, none, some O, some X, some X, some O, none] X O = (some 3, 1) := rfl

theorem mmv_0663 : minimaxL 3 [some X, none, some O, none, some O, some X, some X, none, some O] X O = (some 3, 1) := rfl

theorem mmv_0661 : minimaxL 4 [some X, none, some O, none, some O, some X, some X, none, none] O X = (some 3, 0) := by
  rw [minimaxL_succ 3 [some X, none, some O, none, some O, some X, some X, none, none] O X [1, 3, 7, 8] rfl rfl (List.cons_ne_nil _ _)]
  show pickBest [(1, (minimaxL 3 [some X, some O, some O, none, some O, some X, some X, none, none] X O).2), (3, (minimaxL 3 [some X, none, some O, some O, some O, some X, some X, none, none] X O).2), (7, (minimaxL 3 [some X, none, some O, none, some O, some X, some X, some O, none] X O).2), (8, (minimaxL 3 [some X, none, some O, none, some O, some X, some X, none, some O] X O).2)] O = (some 3, 0)
  rw [mmv_0286, mmv_0638, mmv_0662, mmv_0663]
  rfl

theorem mmv_0664 : minimaxL 4 [some X, none, some O, none, some O, some X, none, some X, none] O X = (some 6, -1) := rfl

theorem mmv_0665 : minimaxL 4 [some X, none, some O, none, some O, some X, none, none, some X] O X = (some 6, -1) := rfl

theorem mmv_0659 : minimaxL 5 [some X, none, some O, none, some O, some X, none, none, none] X O = (some 6, 0) := by
  rw [minimaxL_succ 4 [some X, none, some O, none, some O, some X, none, none, none] X O [1, 3, 6, 7, 8] rfl rfl (List.cons_ne_nil _ _)]
  show pickBest [(1, (minimaxL 4 [some X, some X, some O, none, some O, some X, none, none, none] O X).2), (3, (minimaxL 4 [some X, none, some O, some X, some O, some X, none, none, none] O X).2), (6, (minimaxL 4 [some X, none, some O, none, some O, some X, some X, none, none] O X).2), (7, (minimaxL 4 [some X, none, some O, none, some O, some X, none, some X, none] O X).2), (8, (minimaxL 4 [some X, none, some O, none, some O, some X, none, none, some X] O X).2)] X = (some 6, 0)
  rw [mmv_0524, mmv_0660, mmv_0661, mmv_0664, mmv_0665]
  rfl

theorem mmv_0668 : minimaxL 3 [some X, none, some O, none, some X, some X, some O, some O, none] X O = (some 8, 1) := rfl

theorem mmv_0667 : minimaxL 4 [some X, none, some O, none, some X, some X, some O, none, none] O X = (some 1, 1) := by
  rw [minimaxL_succ 3 [some X, none, some O, none, some X, some X, some O, none, none] O X [1, 3, 7, 8] rfl rfl (List.cons_ne_nil _ _)]
  show pickBest [(1, (minimaxL 3 [some X, some O, some O, none, some X, some X, some O, none, none] X O).2), (3, (minimaxL 3 [some X, none, some O, some O, some X, some X, some O, none, none] X O).2), (7, (minimaxL 3 [some X, none, some O, none, some X, some X, some O, some O, none] X O).2), (8, (minimaxL 3 [some X, none, some O, none, some X, some X, some O, none, some O] X O).2)] O = (some 1, 1)
  rw [mmv_0274, mmv_0635, mmv_0668, mmv_0628]
  rfl

theorem mmv_0669 : minimaxL 4 [some X, none, some O, none, none, some X, some O, some X, none] O X = (some 4, -1) := rfl

theorem mmv_0670 : minimaxL 4 [some X, none, some O, none, none, some X, some O, none, some X] O X = (some 4, -1) := rfl

theorem mmv_0666 : minimaxL 5 [some X, none, some O, none, none, some X, some O, none, none] X O = (some 4, 1) := by
  rw [minimaxL_succ 4 [some X, none, some O, none, none, some X, some O, none, none] X O [1, 3, 4, 7, 8] rfl rfl (List.cons_ne_nil _ _)]
  show pickBest [(1, (minimaxL 4 [some X, some X, some O, none, none, some X, some O, none, none] O X).2), (3, (minimaxL 4 [some X, none, some O, some X, none, some X, some O, none, none] O X).2), (4, (minimaxL 4 [some X, none, some O, none, some X, some X, some O, none, none] O X).2), (7, (minimaxL 4 [some X, none, some O, none, none, some X, some O, some X, none] O X).2), (8, (minimaxL 4 [some X, none, some O, none, none, some X, some O, none, some X] O X).2)] X = (some 4, 1)
  rw [mmv_0549, mmv_0610, mmv_0667, mmv_0669, mmv_0670]
  rfl

theorem mmv_0673 : minimaxL 3 [some X, none, some O, some X, some O, some X, none, some O, none] X O = (some 6, 1) := rfl

theorem mmv_0674 : minimaxL 3 [some X, none, some O, some X, none, some X, some O, some O, none] X O = (some 4, 1) := rfl

theorem mmv_0675 : minimaxL 3 [some X, none, some O, some X, none, some X, none, some O, some O] X O = (some 6, 1) := rfl

theorem mmv_0672 : minimaxL 4 [some X, none, some O, some X, none, some X, none, some O, none] O X = (some 1, 1) := by
  rw [minimaxL_succ 3 [some X, none, some O, some X, none, some X, none, some O, none] O X [1, 4, 6, 8] rfl rfl (List.cons_ne_nil _ _)]
  show pickBest [(1, (minimaxL 3 [some X, some O, some O, some X, none, some X, none, some O, none] X O).2), (4, (minimaxL 3 [some X, none, some O, some X, some O, some X, none, some O, none] X O).2), (6, (minimaxL 3 [some X, none, some O, some X, none, some X, some O, some O, none] X O).2), (8, (minimaxL 3 [some X, none, some O, some X, none, some X, none, some O, some O] X O).2)] O = (some 1, 1)
  rw [mmv_0270, mmv_0673, mmv_0674, mmv_0675]
  rfl

theorem mmv_0676 : minimaxL 4 [some X, none, some O, none, some X, some X, none, some O, none] O X = (some 1, 1) := by
  rw [minimaxL_succ 3 [some X, none, some O, none, some X, some X, none, some O, none] O X [1, 3, 6, 8] rfl rfl (List.cons_ne_nil _ _)]
  show pickBest [(1, (minimaxL 3 [some X, some O, some O, none, some X, some X, none, some O, none] X O).2), (3, (minimaxL 3 [some X, none, some O, some O, some X, some X, none, some O, none] X O).2), (6, (minimaxL 3 [some X, none, some O, none, some X, some X, some O, some O, none] X O).2), (8, (minimaxL 3 [some X, none, some O, none, some X, some X, none, some O, some O] X O).2)] O = (some 1, 1)
  rw [mmv_0275, mmv_0636, mmv_0668, mmv_0629]
  rfl

theorem mmv_0678 : minimaxL 3 [some X, none, some O, none, none, some X, some X, some O, some O] X O = (some 3, 1) := rfl

theorem mmv_0677 : minimaxL 4 [some X, none, some O, none, none, some X, some X, some O, none] O X = (some 3, 0) := by
  rw [minimaxL_succ 3 [some X, none, some O, none, none, some X, some X, some O, none] O X [1, 3, 4, 8] rfl rfl (List.cons_ne_nil _ _)]
  show pickBest [(1, (minimaxL 3 [some X, some O, some O, none, none, some X, some X, some O, none] X O).2), (3, (minimaxL 3 [some X, none, some O, some O, none, some X, some X, some O, none] X O).2), (4, (minimaxL 3 [some X, none, some O, none, some O, some X, some X, some O, none] X O).2), (8, (minimaxL 3 [some X, none, some O, none, none, some X, some X, some O, some O] X O).2)] O = (some 3, 0)
  rw [mmv_0287, mmv_0643, mmv_0662, mmv_0678]
  rfl

theorem mmv_0681 : minimaxL 2 [some X, none, some O, some X, some O, some X, none, some O, some X] O X = (some 6, -1) := rfl

theorem mmv_0682 : minimaxL 2 [some X, none, some O, none, some O, some X, some X, some O, some X] O X = (some 1, -1) := rfl

theorem mmv_0680 : minimaxL 3 [some X, none, some O, none, some O, some X, none, some O, some X] X O = (some 6, -1) := by
  rw [minimaxL_succ 2 [some X, none, some O, none, some O, some X, none, some O, some X] X O [1, 3, 6] rfl rfl (List.cons_ne_nil _ _)]
  show pickBest [(1, (minimaxL 2 [some X, some X, some O, none, some O, some X, none, some O, some X] O X).2), (3, (minimaxL 2 [some X, none, some O, some X, some O, some X, none, some O, some X] O X).2), (6, (minimaxL 2 [some X, none, some O, none, some O, some X, some X, some O, some X] O X).2)] X = (some 6, -1)
  rw [mmv_0572, mmv_0681, mmv_0682]
  rfl

theorem mmv_0683 : minimaxL 3 [some X, none, some O, none, none, some X, some O, some O, some X] X O = (some 4, 1) := rfl

theorem mmv_0679 : minimaxL 4 [some X, none, some O, none, none, some X, none, some O, some X] O X = (some 4, -1) := by
  rw [minimaxL_succ 3 [some X, none, some O, none, none, some X, none, some O, some X] O X [1, 3, 4, 6] rfl rfl (List.cons_ne_nil _ _)]
  show pickBest [(1, (minimaxL 3 [some X, some O, some O, none, none, some X, none, some O, some X] X O).2), (3, (minimaxL 3 [some X, none, some O, some O, none, some X, none, some O, some X] X O).2), (4, (minimaxL 3 [some X, none, some O, none, some O, some X, none, some O, some X] X O).2), (6, (minimaxL 3 [some X, none, some O, none, none, some X, some O, some O, some X] X O).2)] O = (some 4, -1)
  rw [mmv_0314, mmv_0658, mmv_0680, mmv_0683]
  rfl

theorem mmv_0671 : minimaxL 5 [some X, none, some O, none, none, some X, none, some O, none] X O = (some 4, 1) := by
  rw [minimaxL_succ 4 [some X, none, some O, none, none, some X, none, some O, none] X O [1, 3, 4, 6, 8] rfl rfl (List.cons_ne_nil _ _)]
  show pickBest [(1, (minimaxL 4 [some X, some X, some O, none, none, some X, none, some O, none] O X).2), (3, (minimaxL 4 [some X, none, some O, some X, none, some X, none, some O, none] O X).2), (4, (minimaxL 4 [some X, none, some O, none, some X, some X, none, some O, none] O X).2), (6, (minimaxL 4 [some X, none, some O, none, none, some X, some X, some O, none] O X).2), (8, (minimaxL 4 [some X, none, some O, none, none, some X, none, some O, some X] O X).2)] X = (some 4, 1)
  rw [mmv_0567, mmv_0672, mmv_0676, mmv_0677, mmv_0679]
  rfl

theorem mmv_0686 : minimaxL 3 [some X, none, some O, some X, some O, some X, none, none, some O] X O = (some 6, 1) := rfl

theorem mmv_0687 : minimaxL 3 [some X, none, some O, some X, none, some X, some O, none, some O] X O = (some 4, 1) := rfl

theorem mmv_0685 : minimaxL 4 [some X, none, some O, some X, none, some X, none, none, some O] O X = (some 1, 1) := by
  rw [minimaxL_succ 3 [some X, none, some O, some X, none, some X, none, none, some O] O X [1, 4, 6, 7] rfl rfl (List.cons_ne_nil _ _)]
  show pickBest [(1, (minimaxL 3 [some X, some O, some O, some X, none, some X, none, none, some O] X O).2), (4, (minimaxL 3 [some X, none, some O, some X, some O, some X, none, none, some O] X O).2), (6, (minimaxL 3 [some X, none, some O, some X, none, some X, some O, none, some O] X O).2), (7, (minimaxL 3 [some X, none, some O, some X, none, some X, none, some O, some O] X O).2)] O = (some 1, 1)
  rw [mmv_0271, mmv_0686, mmv_0687, mmv_0675]
  rfl

theorem mmv_0688 : minimaxL 4 [some X, none, some O, none, none, some X, some X, none, some O] O X = (some 3, 0) := by
  rw [minimaxL_succ 3 [some X, none, some O, none, none, some X, some X, none, some O] O X [1, 3, 4, 7] rfl rfl (List.cons_ne_nil _ _)]
  show pickBest [(1, (minimaxL 3 [some X, some O, some O, none, none, some X, some X, none, some O] X O).2), (3, (minimaxL 3 [some X, none, some O, some O, none, some X, some X, none, some O] X O).2), (4, (minimaxL 3 [some X, none, some O, none, some O, some X, some X, none, some O] X O).2), (7, (minimaxL 3 [some X, none, some O, none, none, some X, some X, some O, some O] X O).2)] O = (some 3, 0)
  rw [mmv_0288, mmv_0646, mmv_0663, mmv_0678]
  rfl

theorem mmv_0691 : minimaxL 2 [some X, none, some O, some X, some O, some X, none, some X, some O] O X = (some 6, -1) := rfl

theorem mmv_0692 : minimaxL 2 [some X, none, some O, none, some O, some X, some X, some X, some O] O X = (some 3, 0) := by
  rw [minimaxL_succ 1 [some X, none, some O, none, some O, some X, some X, some X, some O] O X [1, 3] rfl rfl (List.cons_ne_nil _ _)]
  show pickBest [(1, (minimaxL 1 [some X, some O, some O, none, some O, some X, some X, some X, some O] X O).2), (3, (minimaxL 1 [some X, none, some O, some O, some O, some X, some X, some X, some O] X O).2)] O = (some 3, 0)
  rw [mmv_0299, mmv_0640]
  rfl

theorem mmv_0690 : minimaxL 3 [some X, none, some O, none, some O, some X, none, some X, some O] X O = (some 6, 0) := by
  rw [minimaxL_succ 2 [some X, none, some O, none, some O, some X, none, some X, some O] X O [1, 3, 6] rfl rfl (List.cons_ne_nil _ _)]
  show pickBest [(1, (minimaxL 2 [some X, some X, some O, none, some O, some X, none, some X, some O] O X).2), (3, (minimaxL 2 [some X, none, some O, some X, some O, some X, none, some X, some O] O X).2), (6, (minimaxL 2 [some X, none, some O, none, some O, some X, some X, some X, some O] O X).2)] X = (some 6, 0)
  rw [mmv_0595, mmv_0691, mmv_0692]
  rfl

theorem mmv_0694 : minimaxL 2 [some X, none, some O, some X, none, some X, some O, some X, some O] O X = (some 4, -1) := rfl

theorem mmv_0695 : minimaxL 2 [some X, none, some O, none, some X, some X, some O, some X, some O] O X = (some 1, 1) := by
  rw [minimaxL_succ 1 [some X, none, some O, none, some X, some X, some O, some X, some O] O X [1, 3] rfl rfl (List.cons_ne_nil _ _)]
  show pickBest [(1, (minimaxL 1 [some X, some O, some O, none, some X, some X, some O, some X, some O] X O).2), (3, (minimaxL 1 [some X, none, some O, some O, some X, some X, some O, some X, some O] X O).2)] O = (some 1, 1)
  rw [mmv_0255, mmv_0627]
  rfl

theorem mmv_0693 : minimaxL 3 [some X, none, some O, none, none, some X, some O, some X, some O] X O = (some 4, 1) := by
  rw [minimaxL_succ 2 [some X, none, some O, none, none, some X, some O, some X, some O] X O [1, 3, 4] rfl rfl (List.cons_ne_nil _ _)]
  show pickBest [(1, (minimaxL 2 [some X, some X, some O, none, none, some X, some O, some X, some O] O X).2), (3, (minimaxL 2 [some X, none, some O, some X, none, some X, some O, some X, some O] O X).2), (4, (minimaxL 2 [some X, none, some O, none, some X, some X, some O, some X, some O] O X).2)] X = (some 4, 1)
  rw [mmv_0599, mmv_0694, mmv_0695]
  rfl

theorem mmv_0689 : minimaxL 4 [some X, none, some O, none, none, some X, none, some X, some O] O X = (some 3, 0) := by
  rw [minimaxL_succ 3 [some X, none, some O, none, none, some X, none, some X, some O] O X [1, 3, 4, 6] rfl rfl (List.cons_ne_nil _ _)]
  show pickBest [(1, (minimaxL 3 [some X, some O, some O, none, none, some X, none, some X, some O] X O).2), (3, (minimaxL 3 [some X, none, some O, some O, none, some X, none, some X, some O] X O).2), (4, (minimaxL 3 [some X, none, some O, none, some O, some X, none, some X, some O] X O).2), (6, (minimaxL 3 [some X, none, some O, none, none, some X, some O, some X, some O] X O).2)] O = (some 3, 0)
  rw [mmv_0304, mmv_0654, mmv_0690, mmv_0693]
  rfl

theorem mmv_0684 : minimaxL 5 [some X, none, some O, none, none, some X, none, none, some O] X O = (some 3, 1) := by
  rw [minimaxL_succ 4 [some X, none, some O, none, none, some X, none, none, some O] X O [1, 3, 4, 6, 7] rfl rfl (List.cons_ne_nil _ _)]
  show pickBest [(1, (minimaxL 4 [some X, some X, some O, none, none, some X, none, none, some O] O X).2), (3, (minimaxL 4 [some X, none, some O, some X, none, some X, none, none, some O] O X).2), (4, (minimaxL 4 [some X, none, some O, none, some X, some X, none, none, some O] O X).2), (6, (minimaxL 4 [some X, none, some O, none, none, some X, some X, none, some O] O X).2), (7, (minimaxL 4 [some X, none, some O, none, none, some X, none, some X, some O] O X).2)] X = (some 3, 1)
  rw [mmv_0591, mmv_0685, mmv_0622, mmv_0688, mmv_0689]
  rfl

theorem mmv_0632 : minimaxL 6 [some X, none, some O, none, none, some X, none, none, none] O X = (some 3, 0) := by
  rw [minimaxL_succ 5 [some X, none, some O, none, none, some X, none, none, none] O X [1, 3, 4, 6, 7, 8] rfl rfl (List.cons_ne_nil _ _)]
  show pickBest [(1, (minimaxL 5 [some X, some O, some O, none, none, some X, none, none, none] X O).2), (3, (minimaxL 5 [some X, none, some O, some O, none, some X, none, none, none] X O).2), (4, (minimaxL 5 [some X, none, some O, none, some O, some X, none, none, none] X O).2), (6, (minimaxL 5 [some X, none, some O, none, none, some X, some O, none, none] X O).2), (7, (minimaxL 5 [some X, none, some O, none, none, some X, none, some O, none] X O).2), (8, (minimaxL 5 [some X, none, some O, none, none, some X, none, none, some O] X O).2)] O = (some 3, 0)
  rw [mmv_0267, mmv_0633, mmv_0659, mmv_0666, mmv_0671, mmv_0684]
  rfl

theorem mmv_0699 : minimaxL 3 [some X, none, some O, some O, some X, some O, some X, none, none] X O = (some 8, 1) := rfl

theorem mmv_0700 : minimaxL 3 [some X, none, some O, some O, some X, none, some X, some O, none] X O = (some 8, 1) := rfl

theorem mmv_0702 : minimaxL 2 [some X, none, some O, some O, some X, none, some X, some X, some O] O X = (some 5, -1) := rfl

theorem mmv_0701 : minimaxL 3 [some X, none, some O, some O, some X, none, some X, none, some O] X O = (some 5, 0) := by
  rw [minimaxL_succ 2 [some X, none, some O, some O, some X, none, some X, none, some O] X O [1, 5, 7] rfl rfl (List.cons_ne_nil _ _)]
  show pickBest [(1, (minimaxL 2 [some X, some X, some O, some O, some X, none, some X, none, some O] O X).2), (5, (minimaxL 2 [some X, none, some O, some O, some X, some X, some X, none, some O] O X).2), (7, (minimaxL 2 [some X, none, some O, some O, some X, none, some X, some X, some O] O X).2)] X = (some 5, 0)
  rw [mmv_0509, mmv_0624, mmv_0702]
  rfl

theorem mmv_0698 : minimaxL 4 [some X, none, some O, some O, some X, none, some X, none, none] O X = (some 8, 0) := by
  rw [minimaxL_succ 3 [some X, none, some O, some O, some X, none, some X, none, none] O X [1, 5, 7, 8] rfl rfl (List.cons_ne_nil _ _)]
  show pickBest [(1, (minimaxL 3 [some X, some O, some O, some O, some X, none, some X, none, none] X O).2), (5, (minimaxL 3 [some X, none, some O, some O, some X, some O, some X, none, none] X O).2), (7, (minimaxL 3 [some X, none, some O, some O, some X, none, some X, some O, none] X O).2), (8, (minimaxL 3 [some X, none, some O, some O, some X, none, some X, none, some O] X O).2)] O = (some 8, 0)
  rw [mmv_0377, mmv_0699, mmv_0700, mmv_0701]
  rfl

theorem mmv_0704 : minimaxL 3 [some X, none, some O, some O, some O, none, some X, some X, none] X O = (some 8, 1) := rfl

theorem mmv_0705 : minimaxL 3 [some X, none, some O, some O, none, some O, some X, some X, none] X O = (some 8, 1) := rfl

theorem mmv_0706 : minimaxL 3 [some X, none, some O, some O, none, none, some X, some X, some O] X O = (some 5, 0) := by
  rw [minimaxL_succ 2 [some X, none, some O, some O, none, none, some X, some X, some O] X O [1, 4, 5] rfl rfl (List.cons_ne_nil _ _)]
  show pickBest [(1, (minimaxL 2 [some X, some X, some O, some O, none, none, some X, some X, some O] O X).2), (4, (minimaxL 2 [some X, none, some O, some O, some X, none, some X, some X, some O] O X).2), (5, (minimaxL 2 [some X, none, some O, some O, none, some X, some X, some X, some O] O X).2)] X = (some 5, 0)
  rw [mmv_0510, mmv_0702, mmv_0647]
  rfl

theorem mmv_0703 : minimaxL 4 [some X, none, some O, some O, none, none, some X, some X, none] O X = (some 8, 0) := by
  rw [minimaxL_succ 3 [some X, none, some O, some O, none, none, some X, some X, none] O X [1, 4, 5, 8] rfl rfl (List.cons_ne_nil _ _)]
  show pickBest [(1, (minimaxL 3 [some X, some O, some O, some O, none, none, some X, some X, none] X O).2), (4, (minimaxL 3 [some X, none, some O, some O, some O, none, some X, some X, none] X O).2), (5, (minimaxL 3 [some X, none, some O, some O, none, some O, some X, some X, none] X O).2), (8, (minimaxL 3 [some X, none, some O, some O, none, none, some X, some X, some O] X O).2)] O = (some 8, 0)
  rw [mmv_0381, mmv_0704, mmv_0705, mmv_0706]
  rfl

theorem mmv_0708 : minimaxL 3 [some X, none, some O, some O, some O, none, some X, none, some X] X O = (some 7, 1) := rfl

theorem mmv_0709 : minimaxL 3 [some X, none, some O, some O, none, some O, some X, none, some X] X O = (some 4, 1) := rfl

theorem mmv_0710 : minimaxL 3 [some X, none, some O, some O, none, none, some X, some O, some X] X O = (some 4, 1) := rfl

theorem mmv_0707 : minimaxL 4 [some X, none, some O, some O, none, none, some X, none, some X] O X = (some 1, 1) := by
  rw [minimaxL_succ 3 [some X, none, some O, some O, none, none, some X, none, some X] O X [1, 4, 5, 7] rfl rfl (List.cons_ne_nil _ _)]
  show pickBest [(1, (minimaxL 3 [some X, some O, some O, some O, none, none, some X, none, some X] X O).2), (4, (minimaxL 3 [some X, none, some O, some O, some O, none, some X, none, some X] X O).2), (5, (minimaxL 3 [some X, none, some O, some O, none, some O, some X, none, some X] X O).2), (7, (minimaxL 3 [some X, none, some O, some O, none, none, some X, some O, some X] X O).2)] O = (some 1, 1)
  rw [mmv_0386, mmv_0708, mmv_0709, mmv_0710]
  rfl

theorem mmv_0697 : minimaxL 5 [some X, none, some O, some O, none, none, some X, none, none] X O = (some 8, 1) := by
  rw [minimaxL_succ 4 [some X, none, some O, some O, none, none, some X, none, none] X O [1, 4, 5, 7, 8] rfl rfl (List.cons_ne_nil _ _)]
  show pickBest [(1, (minimaxL 4 [some X, some X, some O, some O, none, none, some X, none, none] O X).2), (4, (minimaxL 4 [some X, none, some O, some O, some X, none, some X, none, none] O X).2), (5, (minimaxL 4 [some X, none, some O, some O, none, some X, some X, none, none] O X).2), (7, (minimaxL 4 [some X, none, some O, some O, none, none, some X, some X, none] O X).2), (8, (minimaxL 4 [some X, none, some O, some O, none, none, some X, none, some X] O X).2)] X = (some 8, 1)
  rw [mmv_0493, mmv_0698, mmv_0637, mmv_0703, mmv_0707]
  rfl

theorem mmv_0711 : minimaxL 5 [some X, none, some O, none, some O, none, some X, none, none] X O = (some 3, 1) := rfl

theorem mmv_0712 : minimaxL 5 [some X, none, some O, none, none, some O, some X, none, none] X O = (some 3, 1) := rfl

theorem mmv_0713 : minimaxL 5 [some X, none, some O, none, none, none, some X, some O, none] X O = (some 3, 1) := rfl

theorem mmv_0714 : minimaxL 5 [some X, none, some O, none, none, none, some X, none, some O] X O = (some 3, 1) := rfl

theorem mmv_0696 : minimaxL 6 [some X, none, some O, none, none, none, some X, none, none] O X = (some 1, 1) := by
  rw [minimaxL_succ 5 [some X, none, some O, none, none, none, some X, none, none] O X [1, 3, 4, 5, 7, 8] rfl rfl (List.cons_ne_nil _ _)]
  show pickBest [(1, (minimaxL 5 [some X, some O, some O, none, none, none, some X, none, none] X O).2), (3, (minimaxL 5 [some X, none, some O, some O, none, none, some X, none, none] X O).2), (4, (minimaxL 5 [some X, none, some O, none, some O, none, some X, none, none] X O).2), (5, (minimaxL 5 [some X, none, some O, none, none, some O, some X, none, none] X O).2), (7, (minimaxL 5 [some X, none, some O, none, none, none, some X, some O, none] X O).2), (8, (minimaxL 5 [some X, none, some O, none, none, none, some X, none, some O] X O).2)] O = (some 1, 1)
  rw [mmv_0374, mmv_0697, mmv_0711, mmv_0712, mmv_0713, mmv_0714]
  rfl

theorem mmv_0718 : minimaxL 3 [some X, none, some O, some O, some X, some O, none, some X, none] X O = (some 8, 1) := rfl

theorem mmv_0719 : minimaxL 3 [some X, none, some O, some O, some X, none, some O, some X, none] X O = (some 8, 1) := rfl

theorem mmv_0720 : minimaxL 3 [some X, none, some O, some O, some X, none, none, some X, some O] X O = (some 1, 1) := rfl

theorem mmv_0717 : minimaxL 4 [some X, none, some O, some O, some X, none, none, some X, none] O X = (some 1, 1) := by
  rw [minimaxL_succ 3 [some X, none, some O, some O, some X, none, none, some X, none] O X [1, 5, 6, 8] rfl rfl (List.cons_ne_nil _ _)]
  show pickBest [(1, (minimaxL 3 [some X, some O, some O, some O, some X, none, none, some X, none] X O).2), (5, (minimaxL 3 [some X, none, some O, some O, some X, some O, none, some X, none] X O).2), (6, (minimaxL 3 [some X, none, some O, some O, some X, none, some O, some X, none] X O).2), (8, (minimaxL 3 [some X, none, some O, some O, some X, none, none, some X, some O] X O).2)] O = (some 1, 1)
  rw [mmv_0401, mmv_0718, mmv_0719, mmv_0720]
  rfl

theorem mmv_0722 : minimaxL 3 [some X, none, some O, some O, some O, none, none, some X, some X] X O = (some 6, 1) := rfl

theorem mmv_0723 : minimaxL 3 [some X, none, some O, some O, none, some O, none, some X, some X] X O = (some 4, 1) := rfl

theorem mmv_0724 : minimaxL 3 [some X, none, some O, some O, none, none, some O, some X, some X] X O = (some 4, 1) := rfl

theorem mmv_0721 : minimaxL 4 [some X, none, some O, some O, none, none, none, some X, some X] O X = (some 1, 1) := by
  rw [minimaxL_succ 3 [some X, none, some O, some O, none, none, none, some X, some X] O X [1, 4, 5, 6] rfl rfl (List.cons_ne_nil _ _)]
  show pickBest [(1, (minimaxL 3 [some X, some O, some O, some O, none, none, none, some X, some X] X O).2), (4, (minimaxL 3 [some X, none, some O, some O, some O, none, none, some X, some X] X O).2), (5, (minimaxL 3 [some X, none, some O, some O, none, some O, none, some X, some X] X O).2), (6, (minimaxL 3 [some X, none, some O, some O, none, none, some O, some X, some X] X O).2)] O = (some 1, 1)
  rw [mmv_0409, mmv_0722, mmv_0723, mmv_0724]
  rfl

theorem mmv_0716 : minimaxL 5 [some X, none, some O, some O, none, none, none, some X, none] X O = (some 8, 1) := by
  rw [minimaxL_succ 4 [some X, none, some O, some O, none, none, none, some X, none] X O [1, 4, 5, 6, 8] rfl rfl (List.cons_ne_nil _ _)]
  show pickBest [(1, (minimaxL 4 [some X, some X, some O, some O, none, none, none, some X, none] O X).2), (4, (minimaxL 4 [some X, none, some O, some O, some X, none, none, some X, none] O X).2), (5, (minimaxL 4 [some X, none, some O, some O, none, some X, none, some X, none] O X).2), (6, (minimaxL 4 [some X, none, some O, some O, none, none, some X, some X, none] O X).2), (8, (minimaxL 4 [some X, none, some O, some O, none, none, none, some X, some X] O X).2)] X = (some 8, 1)
  rw [mmv_0511, mmv_0717, mmv_0648, mmv_0703, mmv_0721]
  rfl

theorem mmv_0726 : minimaxL 4 [some X, none, some O, some X, some O, none, none, some X, none] O X = (some 6, -1) := rfl

theorem mmv_0728 : minimaxL 3 [some X, none, some O, none, some O, some O, some X, some X, none] X O = (some 3, 1) := rfl

theorem mmv_0729 : minimaxL 3 [some X, none, some O, none, some O, none, some X, some X, some O] X O = (some 3, 1) := rfl

theorem mmv_0727 : minimaxL 4 [some X, none, some O, none, some O, none, some X, some X, none] O X = (some 1, 1) := by
  rw [minimaxL_succ 3 [some X, none, some O, none, some O, none, some X, some X, none] O X [1, 3, 5, 8] rfl rfl (List.cons_ne_nil _ _)]
  show pickBest [(1, (minimaxL 3 [some X, some O, some O, none, some O, none, some X, some X, none] X O).2), (3, (minimaxL 3 [some X, none, some O, some O, some O, none, some X, some X, none] X O).2), (5, (minimaxL 3 [some X, none, some O, none, some O, some O, some X, some X, none] X O).2), (8, (minimaxL 3 [some X, none, some O, none, some O, none, some X, some X, some O] X O).2)] O = (some 1, 1)
  rw [mmv_0405, mmv_0704, mmv_0728, mmv_0729]
  rfl

theorem mmv_0730 : minimaxL 4 [some X, none, some O, none, some O, none, none, some X, some X] O X = (some 6, -1) := rfl

theorem mmv_0725 : minimaxL 5 [some X, none, some O, none, some O, none, none, some X, none] X O = (some 6, 1) := by
  rw [minimaxL_succ 4 [some X, none, some O, none, some O, none, none, some X, none] X O [1, 3, 5, 6, 8] rfl rfl (List.cons_ne_nil _ _)]
  show pickBest [(1, (minimaxL 4 [some X, some X, some O, none, some O, none, none, some X, none] O X).2), (3, (minimaxL 4 [some X, none, some O, some X, some O, none, none, some X, none] O X).2), (5, (minimaxL 4 [some X, none, some O, none, some O, some X, none, some X, none] O X).2), (6, (minimaxL 4 [some X, none, some O, none, some O, none, some X, some X, none] O X).2), (8, (minimaxL 4 [some X, none, some O, none, some O, none, none, some X, some X] O X).2)] X = (some 6, 1)
  rw [mmv_0529, mmv_0726, mmv_0664, mmv_0727, mmv_0730]
  rfl

theorem mmv_0732 : minimaxL 4 [some X, none, some O, some X, none, some O, none, some X, none] O X = (some 8, -1) := rfl

theorem mmv_0733 : minimaxL 4 [some X, none, some O, none, some X, some O, none, some X, none] O X = (some 8, -1) := rfl

theorem mmv_0734 : minimaxL 4 [some X, none, some O, none, none, some O, some X, some X, none] O X = (some 8, -1) := rfl

theorem mmv_0736 : minimaxL 3 [some X, none, some O, none, some O, some O, none, some X, some X] X O = (some 6, 1) := rfl

theorem mmv_0737 : minimaxL 3 [some X, none, some O, none, none, some O, some O, some X, some X] X O = (some 4, 1) := rfl

theorem mmv_0735 : minimaxL 4 [some X, none, some O, none, none, some O, none, some X, some X] O X = (some 1, 1) := by
  rw [minimaxL_succ 3 [some X, none, some O, none, none, some O, none, some X, some X] O X [1, 3, 4, 6] rfl rfl (List.cons_ne_nil _ _)]
  show pickBest [(1, (minimaxL 3 [some X, some O, some O, none, none, some O, none, some X, some X] X O).2), (3, (minimaxL 3 [some X, none, some O, some O, none, some O, none, some X, some X] X O).2), (4, (minimaxL 3 [some X, none, some O, none, some O, some O, none, some X, some X] X O).2), (6, (minimaxL 3 [some X, none, some O, none, none, some O, some O, some X, some X] X O).2)] O = (some 1, 1)
  rw [mmv_0411, mmv_0723, mmv_0736, mmv_0737]
  rfl

theorem mmv_0731 : minimaxL 5 [some X, none, some O, none, none, some O, none, some X, none] X O = (some 8, 1) := by
  rw [minimaxL_succ 4 [some X, none, some O, none, none, some O, none, some X, none] X O [1, 3, 4, 6, 8] rfl rfl (List.cons_ne_nil _ _)]
  show pickBest [(1, (minimaxL 4 [some X, some X, some O, none, none, some O, none, some X, none] O X).2), (3, (minimaxL 4 [some X, none, some O, some X, none, some O, none, some X, none] O X).2), (4, (minimaxL 4 [some X, none, some O, none, some X, some O, none, some X, none] O X).2), (6, (minimaxL 4 [some X, none, some O, none, none, some O, some X, some X, none] O X).2), (8, (minimaxL 4 [some X, none, some O, none, none, some O, none, some X, some X] O X).2)] X = (some 8, 1)
  rw [mmv_0535, mmv_0732, mmv_0733, mmv_0734, mmv_0735]
  rfl

theorem mmv_0740 : minimaxL 3 [some X, none, some O, none, some X, some O, some O, some X, none] X O = (some 8, 1) := rfl

theorem mmv_0741 : minimaxL 3 [some X, none, some O, none, some X, none, some O, some X, some O] X O = (some 1, 1) := rfl

theorem mmv_0739 : minimaxL 4 [some X, none, some O, none, some X, none, some O, some X, none] O X = (some 1, 1) := by
  rw [minimaxL_succ 3 [some X, none, some O, none, some X, none, some O, some X, none] O X [1, 3, 5, 8] rfl rfl (List.cons_ne_nil _ _)]
  show pickBest [(1, (minimaxL 3 [some X, some O, some O, none, some X, none, some O, some X, none] X O).2), (3, (minimaxL 3 [some X, none, some O, some O, some X, none, some O, some X, none] X O).2), (5, (minimaxL 3 [some X, none, some O, none, some X, some O, some O, some X, none] X O).2), (8, (minimaxL 3 [some X, none, some O, none, some X, none, some O, some X, some O] X O).2)] O = (some 1, 1)
  rw [mmv_0403, mmv_0719, mmv_0740, mmv_0741]
  rfl

theorem mmv_0742 : minimaxL 4 [some X, none, some O, none, none, none, some O, some X, some X] O X = (some 4, -1) := rfl

theorem mmv_0738 : minimaxL 5 [some X, none, some O, none, none, none, some O, some X, none] X O = (some 4, 1) := by
  rw [minimaxL_succ 4 [some X, none, some O, none, none, none, some O, some X, none] X O [1, 3, 4, 5, 8] rfl rfl (List.cons_ne_nil _ _)]
  show pickBest [(1, (minimaxL 4 [some X, some X, some O, none, none, none, some O, some X, none] O X).2), (3, (minimaxL 4 [some X, none, some O, some X, none, none, some O, some X, none] O X).2), (4, (minimaxL 4 [some X, none, some O, none, some X, none, some O, some X, none] O X).2), (5, (minimaxL 4 [some X, none, some O, none, none, some X, some O, some X, none] O X).2), (8, (minimaxL 4 [some X, none, some O, none, none, none, some O, some X, some X] O X).2)] X = (some 4, 1)
  rw [mmv_0550, mmv_0611, mmv_0739, mmv_0669, mmv_0742]
  rfl

theorem mmv_0744 : minimaxL 4 [some X, none, some O, some X, none, none, none, some X, some O] O X = (some 5, -1) := rfl

theorem mmv_0745 : minimaxL 4 [some X, none, some O, none, none, none, some X, some X, some O] O X = (some 5, -1) := rfl

theorem mmv_0743 : minimaxL 5 [some X, none, some O, none, none, none, none, some X, some O] X O = (some 5, 0) := by
  rw [minimaxL_succ 4 [some X, none, some O, none, none, none, none, some X, some O] X O [1, 3, 4, 5, 6] rfl rfl (List.cons_ne_nil _ _)]
  show pickBest [(1, (minimaxL 4 [some X, some X, some O, none, none, none, none, some X, some O] O X).2), (3, (minimaxL 4 [some X, none, some O, some X, none, none, none, some X, some O] O X).2), (4, (minimaxL 4 [some X, none, some O, none, some X, none, none, some X, some O] O X).2), (5, (minimaxL 4 [some X, none, some O, none, none, some X, none, some X, some O] O X).2), (6, (minimaxL 4 [some X, none, some O, none, none, none, some X, some X, some O] O X).2)] X = (some 5, 0)
  rw [mmv_0601, mmv_0744, mmv_0631, mmv_0689, mmv_0745]
  rfl

theorem mmv_0715 : minimaxL 6 [some X, none, some O, none, none, none, none, some X, none] O X = (some 8, 0) := by
  rw [minimaxL_succ 5 [some X, none, some O, none, none, none, none, some X, none] O X [1, 3, 4, 5, 6, 8] rfl rfl (List.cons_ne_nil _ _)]
  show pickBest [(1, (minimaxL 5 [some X, some O, some O, none, none, none, none, some X, none] X O).2), (3, (minimaxL 5 [some X, none, some O, some O, none, none, none, some X, none] X O).2), (4, (minimaxL 5 [some X, none, some O, none, some O, none, none, some X, none] X O).2), (5, (minimaxL 5 [some X, none, some O, none, none, some O, none, some X, none] X O).2), (6, (minimaxL 5 [some X, none, some O, none, none, none, some O, some X, none] X O).2), (8, (minimaxL 5 [some X, none, some O, none, none, none, none, some X, some O] X O).2)] O = (some 8, 0)
  rw [mmv_0395, mmv_0716, mmv_0725, mmv_0731, mmv_0738, mmv_0743]
  rfl

theorem mmv_0747 : minimaxL 5 [some X, none, some O, some O, none, none, none, none, some X] X O = (some 4, 1) := rfl

theorem mmv_0749 : minimaxL 4 [some X, none, some O, some X, some O, none, none, none, some X] O X = (some 6, -1) := rfl

theorem mmv_0751 : minimaxL 3 [some X, some O, some O, none, some O, none, some X, none, some X] X O = (some 3, 1) := rfl

theorem mmv_0752 : minimaxL 3 [some X, none, some O, none, some O, some O, some X, none, some X] X O = (some 3, 1) := rfl

theorem mmv_0753 : minimaxL 3 [some X, none, some O, none, some O, none, some X, some O, some X] X O = (some 3, 1) := rfl

theorem mmv_0750 : minimaxL 4 [some X, none, some O, none, some O, none, some X, none, some X] O X = (some 1, 1) := by
  rw [minimaxL_succ 3 [some X, none, some O, none, some O, none, some X, none, some X] O X [1, 3, 5, 7] rfl rfl (List.cons_ne_nil _ _)]
  show pickBest [(1, (minimaxL 3 [some X, some O, some O, none, some O, none, some X, none, some X] X O).2), (3, (minimaxL 3 [some X, none, some O, some O, some O, none, some X, none, some X] X O).2), (5, (minimaxL 3 [some X, none, some O, none, some O, some O, some X, none, some X] X O).2), (7, (minimaxL 3 [some X, none, some O, none, some O, none, some X, some O, some X] X O).2)] O = (some 1, 1)
  rw [mmv_0751, mmv_0708, mmv_0752, mmv_0753]
  rfl

theorem mmv_0748 : minimaxL 5 [some X, none, some O, none, some O, none, none, none, some X] X O = (some 6, 1) := by
  rw [minimaxL_succ 4 [some X, none, some O, none, some O, none, none, none, some X] X O [1, 3, 5, 6, 7] rfl rfl (List.cons_ne_nil _ _)]
  show pickBest [(1, (minimaxL 4 [some X, some X, some O, none, some O, none, none, none, some X] O X).2), (3, (minimaxL 4 [some X, none, some O, some X, some O, none, none, none, some X] O X).2), (5, (minimaxL 4 [some X, none, some O, none, some O, some X, none, none, some X] O X).2), (6, (minimaxL 4 [some X, none, some O, none, some O, none, some X, none, some X] O X).2), (7, (minimaxL 4 [some X, none, some O, none, some O, none, none, some X, some X] O X).2)] X = (some 6, 1)
  rw [mmv_0530, mmv_0749, mmv_0665, mmv_0750, mmv_0730]
  rfl

theorem mmv_0754 : minimaxL 5 [some X, none, some O, none, none, some O, none, none, some X] X O = (some 4, 1) := rfl

theorem mmv_0755 : minimaxL 5 [some X, none, some O, none, none, none, some O, none, some X] X O = (some 4, 1) := rfl

theorem mmv_0756 : minimaxL 5 [some X, none, some O, none, none, none, none, some O, some X] X O = (some 4, 1) := rfl

theorem mmv_0746 : minimaxL 6 [some X, none, some O, none, none, none, none, none, some X] O X = (some 1, 1) := by
  rw [minimaxL_succ 5 [some X, none, some O, none, none, none, none, none, some X] O X [1, 3, 4, 5, 6, 7] rfl rfl (List.cons_ne_nil _ _)]
  show pickBest [(1, (minimaxL 5 [some X, some O, some O, none, none, none, none, none, some X] X O).2), (3, (minimaxL 5 [some X, none, some O, some O, none, none, none, none, some X] X O).2), (4, (minimaxL 5 [some X, none, some O, none, some O, none, none, none, some X] X O).2), (5, (minimaxL 5 [some X, none, some O, none, none, some O, none, none, some X] X O).2), (6, (minimaxL 5 [some X, none, some O, none, none, none, some O, none, some X] X O).2), (7, (minimaxL 5 [some X, none, some O, none, none, none, none, some O, some X] X O).2)] O = (some 1, 1)
  rw [mmv_0447, mmv_0747, mmv_0748, mmv_0754, mmv_0755, mmv_0756]
  rfl

theorem mmv_0455 : minimaxL 7 [some X, none, some O, none, none, none, none, none, none] X O = (some 8, 1) := by
  rw [minimaxL_succ 6 [some X, none, some O, none, none, none, none, none, none] X O [1, 3, 4, 5, 6, 7, 8] rfl rfl (List.cons_ne_nil _ _)]
  show pickBest [(1, (minimaxL 6 [some X, some X, some O, none, none, none, none, none, none] O X).2), (3, (minimaxL 6 [some X, none, some O, some X, none, none, none, none, none] O X).2), (4, (minimaxL 6 [some X, none, some O, none, some X, none, none, none, none] O X).2), (5, (minimaxL 6 [some X, none, some O, none, none, some X, none, none, none] O X).2), (6, (minimaxL 6 [some X, none, some O, none, none, none, some X, none, none] O X).2), (7, (minimaxL 6 [some X, none, some O, none, none, none, none, some X, none] O X).2), (8, (minimaxL 6 [some X, none, some O, none, none, none, none, none, some X] O X).2)] X = (some 8, 1)
  rw [mmv_0456, mmv_0602, mmv_0615, mmv_0632, mmv_0696, mmv_0715, mmv_0746]
  rfl

theorem mmv_0759 : minimaxL 5 [some X, some X, none, some O, some O, none, none, none, none] X O = (some 2, 1) := rfl

theorem mmv_0760 : minimaxL 5 [some X, some X, none, some O, none, some O, none, none, none] X O = (some 2, 1) := rfl

theorem mmv_0761 : minimaxL 5 [some X, some X, none, some O, none, none, some O, none, none] X O = (some 2, 1) := rfl

theorem mmv_0762 : minimaxL 5 [some X, some X, none, some O, none, none, none, some O, none] X O = (some 2, 1) := rfl

theorem mmv_0763 : minimaxL 5 [some X, some X, none, some O, none, none, none, none, some O] X O = (some 2, 1) := rfl

theorem mmv_0758 : minimaxL 6 [some X, some X, none, some O, none, none, none, none, none] O X = (some 2, 1) := by
  rw [minimaxL_succ 5 [some X, some X, none, some O, none, none, none, none, none] O X [2, 4, 5, 6, 7, 8] rfl rfl (List.cons_ne_nil _ _)]
  show pickBest [(2, (minimaxL 5 [some X, some X, some O, some O, none, none, none, none, none] X O).2), (4, (minimaxL 5 [some X, some X, none, some O, some O, none, none, none, none] X O).2), (5, (minimaxL 5 [some X, some X, none, some O, none, some O, none, none, none] X O).2), (6, (minimaxL 5 [some X, some X, none, some O, none, none, some O, none, none] X O).2), (7, (minimaxL 5 [some X, some X, none, some O, none, none, none, some O, none] X O).2), (8, (minimaxL 5 [some X, some X, none, some O, none, none, none, none, some O] X O).2)] O = (some 2, 1)
  rw [mmv_0457, mmv_0759, mmv_0760, mmv_0761, mmv_0762, mmv_0763]
  rfl

theorem mmv_0765 : minimaxL 5 [some X, none, some X, some O, some O, none, none, none, none] X O = (some 1, 1) := rfl

theorem mmv_0766 : minimaxL 5 [some X, none, some X, some O, none, some O, none, none, none] X O = (some 1, 1) := rfl

theorem mmv_0767 : minimaxL 5 [some X, none, some X, some O, none, none, some O, none, none] X O = (some 1, 1) := rfl

theorem mmv_0768 : minimaxL 5 [some X, none, some X, some O, none, none, none, some O, none] X O = (some 1, 1) := rfl

theorem mmv_0769 : minimaxL 5 [some X, none, some X, some O, none, none, none, none, some O] X O = (some 1, 1) := rfl

theorem mmv_0764 : minimaxL 6 [some X, none, some X, some O, none, none, none, none, none] O X = (some 1, 1) := by
  rw [minimaxL_succ 5 [some X, none, some X, some O, none, none, none, none, none] O X [1, 4, 5, 6, 7, 8] rfl rfl (List.cons_ne_nil _ _)]
  show pickBest [(1, (minimaxL 5 [some X, some O, some X, some O, none, none, none, none, none] X O).2), (4, (minimaxL 5 [some X, none, some X, some O, some O, none, none, none, none] X O).2), (5, (minimaxL 5 [some X, none, some X, some O, none, some O, none, none, none] X O).2), (6, (minimaxL 5 [some X, none, some X, some O, none, none, some O, none, none] X O).2), (7, (minimaxL 5 [some X, none, some X, some O, none, none, none, some O, none] X O).2), (8, (minimaxL 5 [some X, none, some X, some O, none, none, none, none, some O] X O).2)] O = (some 1, 1)
  rw [mmv_0005, mmv_0765, mmv_0766, mmv_0767, mmv_0768, mmv_0769]
  rfl

theorem mmv_0771 : minimaxL 5 [some X, none, none, some O, some X, some O, none, none, none] X O = (some 8, 1) := rfl

theorem mmv_0772 : minimaxL 5 [some X, none, none, some O, some X, none, some O, none, none] X O = (some 8, 1) := rfl

theorem mmv_0773 : minimaxL 5 [some X, none, none, some O, some X, none, none, some O, none] X O = (some 8, 1) := rfl

theorem mmv_0776 : minimaxL 3 [some X, some X, none, some O, some X, some O, none, none, some O] X O = (some 2, 1) := rfl

theorem mmv_0777 : minimaxL 3 [some X, some X, none, some O, some X, none, some O, none, some O] X O = (some 2, 1) := rfl

theorem mmv_0778 : minimaxL 3 [some X, some X, none, some O, some X, none, none, some O, some O] X O = (some 2, 1) := rfl

theorem mmv_0775 : minimaxL 4 [some X, some X, none, some O, some X, none, none, none, some O] O X = (some 2, 1) := by
  rw [minimaxL_succ 3 [some X, some X, none, some O, some X, none, none, none, some O] O X [2, 5, 6, 7] rfl rfl (List.cons_ne_nil _ _)]
  show pickBest [(2, (minimaxL 3 [some X, some X, some O, some O, some X, none, none, none, some O] X O).2), (5, (minimaxL 3 [some X, some X, none, some O, some X, some O, none, none, some O] X O).2), (6, (minimaxL 3 [some X, some X, none, some O, some X, none, some O, none, some O] X O).2), (7, (minimaxL 3 [some X, some X, none, some O, some X, none, none, some O, some O] X O).2)] O = (some 2, 1)
  rw [mmv_0462, mmv_0776, mmv_0777, mmv_0778]
  rfl

theorem mmv_0780 : minimaxL 3 [some X, none, some X, some O, some X, some O, none, none, some O] X O = (some 1, 1) := rfl

theorem mmv_0781 : minimaxL 3 [some X, none, some X, some O, some X, none, some O, none, some O] X O = (some 1, 1) := rfl

theorem mmv_0782 : minimaxL 3 [some X, none, some X, some O, some X, none, none, some O, some O] X O = (some 1, 1) := rfl

theorem mmv_0779 : minimaxL 4 [some X, none, some X, some O, some X, none, none, none, some O] O X = (some 1, 1) := by
  rw [minimaxL_succ 3 [some X, none, some X, some O, some X, none, none, none, some O] O X [1, 5, 6, 7] rfl rfl (List.cons_ne_nil _ _)]
  show pickBest [(1, (minimaxL 3 [some X, some O, some X, some O, some X, none, none, none, some O] X O).2), (5, (minimaxL 3 [some X, none, some X, some O, some X, some O, none, none, some O] X O).2), (6, (minimaxL 3 [some X, none, some X, some O, some X, none, some O, none, some O] X O).2), (7, (minimaxL 3 [some X, none, some X, some O, some X, none, none, some O, some O] X O).2)] O = (some 1, 1)
  rw [mmv_0010, mmv_0780, mmv_0781, mmv_0782]
  rfl

theorem mmv_0785 : minimaxL 2 [some X, some X, none, some O, some X, some X, some O, none, some O] O X = (some 7, -1) := rfl

theorem mmv_0786 : minimaxL 2 [some X, none, some X, some O, some X, some X, some O, none, some O] O X = (some 7, -1) := rfl

theorem mmv_0787 : minimaxL 2 [some X, none, none, some O, some X, some X, some O, some X, some O] O X = (some 1, 0) := by
  rw [minimaxL_succ 1 [some X, none, none, some O, some X, some X, some O, some X, some O] O X [1, 2] rfl rfl (List.cons_ne_nil _ _)]
  show pickBest [(1, (minimaxL 1 [some X, some O, none, some O, some X, some X, some O, some X, some O] X O).2), (2, (minimaxL 1 [some X, none, some O, some O, some X, some X, some O, some X, some O] X O).2)] O = (some 1, 0)
  rw [mmv_0243, mmv_0627]
  rfl

theorem mmv_0784 : minimaxL 3 [some X, none, none, some O, some X, some X, some O, none, some O] X O = (some 7, 0) := by
  rw [minimaxL_succ 2 [some X, none, none, some O, some X, some X, some O, none, some O] X O [1, 2, 7] rfl rfl (List.cons_ne_nil _ _)]
  show pickBest [(1, (minimaxL 2 [some X, some X, none, some O, some X, some X, some O, none, some O] O X).2), (2, (minimaxL 2 [some X, none, some X, some O, some X, some X, some O, none, some O] O X).2), (7, (minimaxL 2 [some X, none, none, some O, some X, some X, some O, some X, some O] O X).2)] X = (some 7, 0)
  rw [mmv_0785, mmv_0786, mmv_0787]
  rfl

theorem mmv_0789 : minimaxL 2 [some X, some X, none, some O, some X, some X, none, some O, some O] O X = (some 6, -1) := rfl

theorem mmv_0790 : minimaxL 2 [some X, none, some X, some O, some X, some X, none, some O, some O] O X = (some 6, -1) := rfl

theorem mmv_0791 : minimaxL 2 [some X, none, none, some O, some X, some X, some X, some O, some O] O X = (some 2, 0) := by
  rw [minimaxL_succ 1 [some X, none, none, some O, some X, some X, some X, some O, some O] O X [1, 2] rfl rfl (List.cons_ne_nil _ _)]
  show pickBest [(1, (minimaxL 1 [some X, some O, none, some O, some X, some X, some X, some O, some O] X O).2), (2, (minimaxL 1 [some X, none, some O, some O, some X, some X, some X, some O, some O] X O).2)] O = (some 2, 0)
  rw [mmv_0240, mmv_0625]
  rfl

theorem mmv_0788 : minimaxL 3 [some X, none, none, some O, some X, some X, none, some O, some O] X O = (some 6, 0) := by
  rw [minimaxL_succ 2 [some X, none, none, some O, some X, some X, none, some O, some O] X O [1, 2, 6] rfl rfl (List.cons_ne_nil _ _)]
  show pickBest [(1, (minimaxL 2 [some X, some X, none, some O, some X, some X, none, some O, some O] O X).2), (2, (minimaxL 2 [some X, none, some X, some O, some X, some X, none, some O, some O] O X).2), (6, (minimaxL 2 [some X, none, none, some O, some X, some X, some X, some O, some O] O X).2)] X = (some 6, 0)
  rw [mmv_0789, mmv_0790, mmv_0791]
  rfl

theorem mmv_0783 : minimaxL 4 [some X, none, none, some O, some X, some X, none, none, some O] O X = (some 1, 0) := by
  rw [minimaxL_succ 3 [some X, none, none, some O, some X, some X, none, none, some O] O X [1, 2, 6, 7] rfl rfl (List.cons_ne_nil _ _)]
  show pickBest [(1, (minimaxL 3 [some X, some O, none, some O, some X, some X, none, none, some O] X O).2), (2, (minimaxL 3 [some X, none, some O, some O, some X, some X, none, none, some O] X O).2), (6, (minimaxL 3 [some X, none, none, some O, some X, some X, some O, none, some O] X O).2), (7, (minimaxL 3 [some X, none, none, some O, some X, some X, none, some O, some O] X O).2)] O = (some 1, 0)
  rw [mmv_0236, mmv_0623, mmv_0784, mmv_0788]
  rfl

theorem mmv_0793 : minimaxL 3 [some X, none, none, some O, some X, some O, some X, none, some O] X O = (some 2, 1) := rfl

theorem mmv_0794 : minimaxL 3 [some X, none, none, some O, some X, none, some X, some O, some O] X O = (some 2, 1) := rfl

theorem mmv_0792 : minimaxL 4 [some X, none, none, some O, some X, none, some X, none, some O] O X = (some 2, 0) := by
  rw [minimaxL_succ 3 [some X, none, none, some O, some X, none, some X, none, some O] O X [1, 2, 5, 7] rfl rfl (List.cons_ne_nil _ _)]
  show pickBest [(1, (minimaxL 3 [some X, some O, none, some O, some X, none, some X, none, some O] X O).2), (2, (minimaxL 3 [some X, none, some O, some O, some X, none, some X, none, some O] X O).2), (5, (minimaxL 3 [some X, none, none, some O, some X, some O, some X, none, some O] X O).2), (7, (minimaxL 3 [some X, none, none, some O, some X, none, some X, some O, some O] X O).2)] O = (some 2, 0)
  rw [mmv_0248, mmv_0701, mmv_0793, mmv_0794]
  rfl

theorem mmv_0796 : minimaxL 3 [some X, none, none, some O, some X, some O, none, some X, some O] X O = (some 1, 1) := rfl

theorem mmv_0797 : minimaxL 3 [some X, none, none, some O, some X, none, some O, some X, some O] X O = (some 1, 1) := rfl

theorem mmv_0795 : minimaxL 4 [some X, none, none, some O, some X, none, none, some X, some O] O X = (some 1, 0) := by
  rw [minimaxL_succ 3 [some X, none, none, some O, some X, none, none, some X, some O] O X [1, 2, 5, 6] rfl rfl (List.cons_ne_nil _ _)]
  show pickBest [(1, (minimaxL 3 [some X, some O, none, some O, some X, none, none, some X, some O] X O).2), (2, (minimaxL 3 [some X, none, some O, some O, some X, none, none, some X, some O] X O).2), (5, (minimaxL 3 [some X, none, none, some O, some X, some O, none, some X, some O] X O).2), (6, (minimaxL 3 [some X, none, none, some O, some X, none, some O, some X, some O] X O).2)] O = (some 1, 0)
  rw [mmv_0257, mmv_0720, mmv_0796, mmv_0797]
  rfl

theorem mmv_0774 : minimaxL 5 [some X, none, none, some O, some X, none, none, none, some O] X O = (some 2, 1) := by
  rw [minimaxL_succ 4 [some X, none, none, some O, some X, none, none, none, some O] X O [1, 2, 5, 6, 7] rfl rfl (List.cons_ne_nil _ _)]
  show pickBest [(1, (minimaxL 4 [some X, some X, none, some O, some X, none, none, none, some O] O X).2), (2, (minimaxL 4 [some X, none, some X, some O, some X, none, none, none, some O] O X).2), (5, (minimaxL 4 [some X, none, none, some O, some X, some X, none, none, some O] O X).2), (6, (minimaxL 4 [some X, none, none, some O, some X, none, some X, none, some O] O X).2), (7, (minimaxL 4 [some X, none, none, some O, some X, none, none, some X, some O] O X).2)] X = (some 2, 1)
  rw [mmv_0775, mmv_0779, mmv_0783, mmv_0792, mmv_0795]
  rfl

theorem mmv_0770 : minimaxL 6 [some X, none, none, some O, some X, none, none, none, none] O X = (some 1, 1) := by
  rw [minimaxL_succ 5 [some X, none, none, some O, some X, none, none, none, none] O X [1, 2, 5, 6, 7, 8] rfl rfl (List.cons_ne_nil _ _)]
  show pickBest [(1, (minimaxL 5 [some X, some O, none, some O, some X, none, none, none, none] X O).2), (2, (minimaxL 5 [some X, none, some O, some O, some X, none, none, none, none] X O).2), (5, (minimaxL 5 [some X, none, none, some O, some X, some O, none, none, none] X O).2), (6, (minimaxL 5 [some X, none, none, some O, some X, none, some O, none, none] X O).2), (7, (minimaxL 5 [some X, none, none, some O, some X, none, none, some O, none] X O).2), (8, (minimaxL 5 [some X, none, none, some O, some X, none, none, none, some O] X O).2)] O = (some 1, 1)
  rw [mmv_0225, mmv_0616, mmv_0771, mmv_0772, mmv_0773, mmv_0774]
  rfl

theorem mmv_0801 : minimaxL 3 [some X, some X, none, some O, some O, some X, some O, none, none] X O = (some 2, 1) := rfl

theorem mmv_0802 : minimaxL 3 [some X, some X, none, some O, some O, some X, none, some O, none] X O = (some 2, 1) := rfl

theorem mmv_0803 : minimaxL 3 [some X, some X, none, some O, some O, some X, none, none, some O] X O = (some 2, 1) := rfl

theorem mmv_0800 : minimaxL 4 [some X, some X, none, some O, some O, some X, none, none, none] O X = (some 2, 0) := by
  rw [minimaxL_succ 3 [some X, some X, none, some O, some O, some X, none, none, none] O X [2, 6, 7, 8] rfl rfl (List.cons_ne_nil _ _)]
  show pickBest [(2, (minimaxL 3 [some X, some X, some O, some O, some O, some X, none, none, none] X O).2), (6, (minimaxL 3 [some X, some X, none, some O, some O, some X, some O, none, none] X O).2), (7, (minimaxL 3 [some X, some X, none, some O, some O, some X, none, some O, none] X O).2), (8, (minimaxL 3 [some X, some X, none, some O, some O, some X, none, none, some O] X O).2)] O = (some 2, 0)
  rw [mmv_0464, mmv_0801, mmv_0802, mmv_0803]
  rfl

theorem mmv_0805 : minimaxL 3 [some X, none, some X, some O, some O, some X, some O, none, none] X O = (some 1, 1) := rfl

theorem mmv_0806 : minimaxL 3 [some X, none, some X, some O, some O, some X, none, some O, none] X O = (some 1, 1) := rfl

theorem mmv_0807 : minimaxL 3 [some X, none, some X, some O, some O, some X, none, none, some O] X O = (some 1, 1) := rfl

theorem mmv_0804 : minimaxL 4 [some X, none, some X, some O, some O, some X, none, none, none] O X = (some 1, 1) := by
  rw [minimaxL_succ 3 [some X, none, some X, some O, some O, some X, none, none, none] O X [1, 6, 7, 8] rfl rfl (List.cons_ne_nil _ _)]
  show pickBest [(1, (minimaxL 3 [some X, some O, some X, some O, some O, some X, none, none, none] X O).2), (6, (minimaxL 3 [some X, none, some X, some O, some O, some X, some O, none, none] X O).2), (7, (minimaxL 3 [some X, none, some X, some O, some O, some X, none, some O, none] X O).2), (8, (minimaxL 3 [some X, none, some X, some O, some O, some X, none, none, some O] X O).2)] O = (some 1, 1)
  rw [mmv_0012, mmv_0805, mmv_0806, mmv_0807]
  rfl

theorem mmv_0811 : minimaxL 1 [some X, some X, none, some O, some O, some X, some X, some O, some O] X O = (some 2, 1) := rfl

theorem mmv_0810 : minimaxL 2 [some X, some X, none, some O, some O, some X, some X, some O, none] O X = (some 2, 0) := by
  rw [minimaxL_succ 1 [some X, some X, none, some O, some O, some X, some X, some O, none] O X [2, 8] rfl rfl (List.cons_ne_nil _ _)]
  show pickBest [(2, (minimaxL 1 [some X, some X, some O, some O, some O, some X, some X, some O, none] X O).2), (8, (minimaxL 1 [some X, some X, none, some O, some O, some X, some X, some O, some O] X O).2)] O = (some 2, 0)
  rw [mmv_0466, mmv_0811]
  rfl

theorem mmv_0812 : minimaxL 2 [some X, none, some X, some O, some O, some X, some X, some O, none] O X = (some 1, -1) := rfl

theorem mmv_0813 : minimaxL 2 [some X, none, none, some O, some O, some X, some X, some O, some X] O X = (some 1, -1) := rfl

theorem mmv_0809 : minimaxL 3 [some X, none, none, some O, some O, some X, some X, some O, none] X O = (some 1, 0) := by
  rw [minimaxL_succ 2 [some X, none, none, some O, some O, some X, some X, some O, none] X O [1, 2, 8] rfl rfl (List.cons_ne_nil _ _)]
  show pickBest [(1, (minimaxL 2 [some X, some X, none, some O, some O, some X, some X, some O, none] O X).2), (2, (minimaxL 2 [some X, none, some X, some O, some O, some X, some X, some O, none] O X).2), (8, (minimaxL 2 [some X, none, none, some O, some O, some X, some X, some O, some X] O X).2)] X = (some 1, 0)
  rw [mmv_0810, mmv_0812, mmv_0813]
  rfl

theorem mmv_0815 : minimaxL 2 [some X, some X, none, some O, some O, some X, some X, none, some O] O X = (some 2, 0) := by
  rw [minimaxL_succ 1 [some X, some X, none, some O, some O, some X, some X, none, some O] O X [2, 7] rfl rfl (List.cons_ne_nil _ _)]
  show pickBest [(2, (minimaxL 1 [some X, some X, some O, some O, some O, some X, some X, none, some O] X O).2), (7, (minimaxL 1 [some X, some X, none, some O, some O, some X, some X, some O, some O] X O).2)] O = (some 2, 0)
  rw [mmv_0468, mmv_0811]
  rfl

theorem mmv_0817 : minimaxL 1 [some X, none, some X, some O, some O, some X, some X, some O, some O] X O = (some 1, 1) := rfl

theorem mmv_0816 : minimaxL 2 [some X, none, some X, some O, some O, some X, some X, none, some O] O X = (some 1, 0) := by
  rw [minimaxL_succ 1 [some X, none, some X, some O, some O, some X, some X, none, some O] O X [1, 7] rfl rfl (List.cons_ne_nil _ _)]
  show pickBest [(1, (minimaxL 1 [some X, some O, some X, some O, some O, some X, some X, none, some O] X O).2), (7, (minimaxL 1 [some X, none, some X, some O, some O, some X, some X, some O, some O] X O).2)] O = (some 1, 0)
  rw [mmv_0021, mmv_0817]
  rfl

theorem mmv_0818 : minimaxL 2 [some X, none, none, some O, some O, some X, some X, some X, some O] O X = (some 1, 0) := by
  rw [minimaxL_succ 1 [some X, none, none, some O, some O, some X, some X, some X, some O] O X [1, 2] rfl rfl (List.cons_ne_nil _ _)]
  show pickBest [(1, (minimaxL 1 [some X, some O, none, some O, some O, some X, some X, some X, some O] X O).2), (2, (minimaxL 1 [some X, none, some O, some O, some O, some X, some X, some X, some O] X O).2)] O = (some 1, 0)
  rw [mmv_0322, mmv_0640]
  rfl

theorem mmv_0814 : minimaxL 3 [some X, none, none, some O, some O, some X, some X, none, some O] X O = (some 7, 0) := by
  rw [minimaxL_succ 2 [some X, none, none, some O, some O, some X, some X, none, some O] X O [1, 2, 7] rfl rfl (List.cons_ne_nil _ _)]
  show pickBest [(1, (minimaxL 2 [some X, some X, none, some O, some O, some X, some X, none, some O] O X).2), (2, (minimaxL 2 [some X, none, some X, some O, some O, some X, some X, none, some O] O X).2), (7, (minimaxL 2 [some X, none, none, some O, some O, some X, some X, some X, some O] O X).2)] X = (some 7, 0)
  rw [mmv_0815, mmv_0816, mmv_0818]
  rfl

theorem mmv_0808 : minimaxL 4 [some X, none, none, some O, some O, some X, some X, none, none] O X = (some 1, 0) := by
  rw [minimaxL_succ 3 [some X, none, none, some O, some O, some X, some X, none, none] O X [1, 2, 7, 8] rfl rfl (List.cons_ne_nil _ _)]
  show pickBest [(1, (minimaxL 3 [some X, some O, none, some O, some O, some X, some X, none, none] X O).2), (2, (minimaxL 3 [some X, none, some O, some O, some O, some X, some X, none, none] X O).2), (7, (minimaxL 3 [some X, none, none, some O, some O, some X, some X, some O, none] X O).2), (8, (minimaxL 3 [some X, none, none, some O, some O, some X, some X, none, some O] X O).2)] O = (some 1, 0)
  rw [mmv_0320, mmv_0638, mmv_0809, mmv_0814]
  rfl

theorem mmv_0821 : minimaxL 2 [some X, some X, none, some O, some O, some X, some O, some X, none] O X = (some 2, -1) := rfl

theorem mmv_0823 : minimaxL 1 [some X, none, some X, some O, some O, some X, some O, some X, some O] X O = (some 1, 1) := rfl

theorem mmv_0822 : minimaxL 2 [some X, none, some X, some O, some O, some X, some O, some X, none] O X = (some 1, 1) := by
  rw [minimaxL_succ 1 [some X, none, some X, some O, some O, some X, some O, some X, none] O X [1, 8] rfl rfl (List.cons_ne_nil _ _)]
  show pickBest [(1, (minimaxL 1 [some X, some O, some X, some O, some O, some X, some O, some X, none] X O).2), (8, (minimaxL 1 [some X, none, some X, some O, some O, some X, some O, some X, some O] X O).2)] O = (some 1, 1)
  rw [mmv_0038, mmv_0823]
  rfl

theorem mmv_0824 : minimaxL 2 [some X, none, none, some O, some O, some X, some O, some X, some X] O X = (some 2, -1) := rfl

theorem mmv_0820 : minimaxL 3 [some X, none, none, some O, some O, some X, some O, some X, none] X O = (some 2, 1) := by
  rw [minimaxL_succ 2 [some X, none, none, some O, some O, some X, some O, some X, none] X O [1, 2, 8] rfl rfl (List.cons_ne_nil _ _)]
  show pickBest [(1, (minimaxL 2 [some X, some X, none, some O, some O, some X, some O, some X, none] O X).2), (2, (minimaxL 2 [some X, none, some X, some O, some O, some X, some O, some X, none] O X).2), (8, (minimaxL 2 [some X, none, none, some O, some O, some X, some O, some X, some X] O X).2)] X = (some 2, 1)
  rw [mmv_0821, mmv_0822, mmv_0824]
  rfl

theorem mmv_0827 : minimaxL 1 [some X, some X, none, some O, some O, some X, some O, some X, some O] X O = (some 2, 1) := rfl

theorem mmv_0826 : minimaxL 2 [some X, some X, none, some O, some O, some X, none, some X, some O] O X = (some 2, 0) := by
  rw [minimaxL_succ 1 [some X, some X, none, some O, some O, some X, none, some X, some O] O X [2, 6] rfl rfl (List.cons_ne_nil _ _)]
  show pickBest [(2, (minimaxL 1 [some X, some X, some O, some O, some O, some X, none, some X, some O] X O).2), (6, (minimaxL 1 [some X, some X, none, some O, some O, some X, some O, some X, some O] X O).2)] O = (some 2, 0)
  rw [mmv_0491, mmv_0827]
  rfl

theorem mmv_0828 : minimaxL 2 [some X, none, some X, some O, some O, some X, none, some X, some O] O X = (some 1, 0) := by
  rw [minimaxL_succ 1 [some X, none, some X, some O, some O, some X, none, some X, some O] O X [1, 6] rfl rfl (List.cons_ne_nil _ _)]
  show pickBest [(1, (minimaxL 1 [some X, some O, some X, some O, some O, some X, none, some X, some O] X O).2), (6, (minimaxL 1 [some X, none, some X, some O, some O, some X, some O, some X, some O] X O).2)] O = (some 1, 0)
  rw [mmv_0025, mmv_0823]
  rfl

theorem mmv_0825 : minimaxL 3 [some X, none, none, some O, some O, some X, none, some X, some O] X O = (some 6, 0) := by
  rw [minimaxL_succ 2 [some X, none, none, some O, some O, some X, none, some X, some O] X O [1, 2, 6] rfl rfl (List.cons_ne_nil _ _)]
  show pickBest [(1, (minimaxL 2 [some X, some X, none, some O, some O, some X, none, some X, some O] O X).2), (2, (minimaxL 2 [some X, none, some X, some O, some O, some X, none, some X, some O] O X).2), (6, (minimaxL 2 [some X, none, none, some O, some O, some X, some X, some X, some O] O X).2)] X = (some 6, 0)
  rw [mmv_0826, mmv_0828, mmv_0818]
  rfl

theorem mmv_0819 : minimaxL 4 [some X, none, none, some O, some O, some X, none, some X, none] O X = (some 2, 0) := by
  rw [minimaxL_succ 3 [some X, none, none, some O, some O, some X, none, some X, none] O X [1, 2, 6, 8] rfl rfl (List.cons_ne_nil _ _)]
  show pickBest [(1, (minimaxL 3 [some X, some O, none, some O, some O, some X, none, some X, none] X O).2), (2, (minimaxL 3 [some X, none, some O, some O, some O, some X, none, some X, none] X O).2), (6, (minimaxL 3 [some X, none, none, some O, some O, some X, some O, some X, none] X O).2), (8, (minimaxL 3 [some X, none, none, some O, some O, some X, none, some X, some O] X O).2)] O = (some 2, 0)
  rw [mmv_0331, mmv_0649, mmv_0820, mmv_0825]
  rfl

theorem mmv_0830 : minimaxL 3 [some X, none, none, some O, some O, some X, some O, none, some X] X O = (some 2, 1) := rfl

theorem mmv_0831 : minimaxL 3 [some X, none, none, some O, some O, some X, none, some O, some X] X O = (some 2, 1) := rfl

theorem mmv_0829 : minimaxL 4 [some X, none, none, some O, some O, some X, none, none, some X] O X = (some 2, 0) := by
  rw [minimaxL_succ 3 [some X, none, none, some O, some O, some X, none, none, some X] O X [1, 2, 6, 7] rfl rfl (List.cons_ne_nil _ _)]
  show pickBest [(1, (minimaxL 3 [some X, some O, none, some O, some O, some X, none, none, some X] X O).2), (2, (minimaxL 3 [some X, none, some O, some O, some O, some X, none, none, some X] X O).2), (6, (minimaxL 3 [some X, none, none, some O, some O, some X, some O, none, some X] X O).2), (7, (minimaxL 3 [some X, none, none, some O, some O, some X, none, some O, some X] X O).2)] O = (some 2, 0)
  rw [mmv_0339, mmv_0656, mmv_0830, mmv_0831]
  rfl

theorem mmv_0799 : minimaxL 5 [some X, none, none, some O, some O, some X, none, none, none] X O = (some 2, 1) := by
  rw [minimaxL_succ 4 [some X, none, none, some O, some O, some X, none, none, none] X O [1, 2, 6, 7, 8] rfl rfl (List.cons_ne_nil _ _)]
  show pickBest [(1, (minimaxL 4 [some X, some X, none, some O, some O, some X, none, none, none] O X).2), (2, (minimaxL 4 [some X, none, some X, some O, some O, some X, none, none, none] O X).2), (6, (minimaxL 4 [some X, none, none, some O, some O, some X, some X, none, none] O X).2), (7, (minimaxL 4 [some X, none, none, some O, some O, some X, none, some X, none] O X).2), (8, (minimaxL 4 [some X, none, none, some O, some O, some X, none, none, some X] O X).2)] X = (some 2, 1)
  rw [mmv_0800, mmv_0804, mmv_0808, mmv_0819, mmv_0829]
  rfl

theorem mmv_0834 : minimaxL 3 [some X, some X, none, some O, none, some X, some O, some O, none] X O = (some 2, 1) := rfl

theorem mmv_0835 : minimaxL 3 [some X, some X, none, some O, none, some X, some O, none, some O] X O = (some 2, 1) := rfl

theorem mmv_0833 : minimaxL 4 [some X, some X, none, some O, none, some X, some O, none, none] O X = (some 2, 1) := by
  rw [minimaxL_succ 3 [some X, some X, none, some O, none, some X, some O, none, none] O X [2, 4, 7, 8] rfl rfl (List.cons_ne_nil _ _)]
  show pickBest [(2, (minimaxL 3 [some X, some X, some O, some O, none, some X, some O, none, none] X O).2), (4, (minimaxL 3 [some X, some X, none, some O, some O, some X, some O, none, none] X O).2), (7, (minimaxL 3 [some X, some X, none, some O, none, some X, some O, some O, none] X O).2), (8, (minimaxL 3 [some X, some X, none, some O, none, some X, some O, none, some O] X O).2)] O = (some 2, 1)
  rw [mmv_0472, mmv_0801, mmv_0834, mmv_0835]
  rfl

theorem mmv_0837 : minimaxL 3 [some X, none, some X, some O, none, some X, some O, some O, none] X O = (some 1, 1) := rfl

theorem mmv_0838 : minimaxL 3 [some X, none, some X, some O, none, some X, some O, none, some O] X O = (some 1, 1) := rfl

theorem mmv_0836 : minimaxL 4 [some X, none, some X, some O, none, some X, some O, none, none] O X = (some 1, 1) := by
  rw [minimaxL_succ 3 [some X, none, some X, some O, none, some X, some O, none, none] O X [1, 4, 7, 8] rfl rfl (List.cons_ne_nil _ _)]
  show pickBest [(1, (minimaxL 3 [some X, some O, some X, some O, none, some X, some O, none, none] X O).2), (4, (minimaxL 3 [some X, none, some X, some O, some O, some X, some O, none, none] X O).2), (7, (minimaxL 3 [some X, none, some X, some O, none, some X, some O, some O, none] X O).2), (8, (minimaxL 3 [some X, none, some X, some O, none, some X, some O, none, some O] X O).2)] O = (some 1, 1)
  rw [mmv_0013, mmv_0805, mmv_0837, mmv_0838]
  rfl

theorem mmv_0840 : minimaxL 3 [some X, none, none, some O, some X, some X, some O, some O, none] X O = (some 8, 1) := rfl

theorem mmv_0839 : minimaxL 4 [some X, none, none, some O, some X, some X, some O, none, none] O X = (some 8, 0) := by
  rw [minimaxL_succ 3 [some X, none, none, some O, some X, some X, some O, none, none] O X [1, 2, 7, 8] rfl rfl (List.cons_ne_nil _ _)]
  show pickBest [(1, (minimaxL 3 [some X, some O, none, some O, some X, some X, some O, none, none] X O).2), (2, (minimaxL 3 [some X, none, some O, some O, some X, some X, some O, none, none] X O).2), (7, (minimaxL 3 [some X, none, none, some O, some X, some X, some O, some O, none] X O).2), (8, (minimaxL 3 [some X, none, none, some O, some X, some X, some O, none, some O] X O).2)] O = (some 8, 0)
  rw [mmv_0317, mmv_0635, mmv_0840, mmv_0784]
  rfl

theorem mmv_0843 : minimaxL 2 [some X, some X, none, some O, none, some X, some O, some X, some O] O X = (some 2, 1) := by
  rw [minimaxL_succ 1 [some X, some X, none, some O, none, some X, some O, some X, some O] O X [2, 4] rfl rfl (List.cons_ne_nil _ _)]
  show pickBest [(2, (minimaxL 1 [some X, some X, some O, some O, none, some X, some O, some X, some O] X O).2), (4, (minimaxL 1 [some X, some X, none, some O, some O, some X, some O, some X, some O] X O).2)] O = (some 2, 1)
  rw [mmv_0492, mmv_0827]
  rfl

theorem mmv_0844 : minimaxL 2 [some X, none, some X, some O, none, some X, some O, some X, some O] O X = (some 1, 0) := by
  rw [minimaxL_succ 1 [some X, none, some X, some O, none, some X, some O, some X, some O] O X [1, 4] rfl rfl (List.cons_ne_nil _ _)]
  show pickBest [(1, (minimaxL 1 [some X, some O, some X, some O, none, some X, some O, some X, some O] X O).2), (4, (minimaxL 1 [some X, none, some X, some O, some O, some X, some O, some X, some O] X O).2)] O = (some 1, 0)
  rw [mmv_0026, mmv_0823]
  rfl

theorem mmv_0842 : minimaxL 3 [some X, none, none, some O, none, some X, some O, some X, some O] X O = (some 1, 1) := by
  rw [minimaxL_succ 2 [some X, none, none, some O, none, some X, some O, some X, some O] X O [1, 2, 4] rfl rfl (List.cons_ne_nil _ _)]
  show pickBest [(1, (minimaxL 2 [some X, some X, none, some O, none, some X, some O, some X, some O] O X).2), (2, (minimaxL 2 [some X, none, some X, some O, none, some X, some O, some X, some O] O X).2), (4, (minimaxL 2 [some X, none, none, some O, some X, some X, some O, some X, some O] O X).2)] X = (some 1, 1)
  rw [mmv_0843, mmv_0844, mmv_0787]
  rfl

theorem mmv_0841 : minimaxL 4 [some X, none, none, some O, none, some X, some O, some X, none] O X = (some 1, 1) := by
  rw [minimaxL_succ 3 [some X, none, none, some O, none, some X, some O, some X, none] O X [1, 2, 4, 8] rfl rfl (List.cons_ne_nil _ _)]
  show pickBest [(1, (minimaxL 3 [some X, some O, none, some O, none, some X, some O, some X, none] X O).2), (2, (minimaxL 3 [some X, none, some O, some O, none, some X, some O, some X, none] X O).2), (4, (minimaxL 3 [some X, none, none, some O, some O, some X, some O, some X, none] X O).2), (8, (minimaxL 3 [some X, none, none, some O, none, some X, some O, some X, some O] X O).2)] O = (some 1, 1)
  rw [mmv_0334, mmv_0651, mmv_0820, mmv_0842]
  rfl

theorem mmv_0846 : minimaxL 3 [some X, none, none, some O, none, some X, some O, some O, some X] X O = (some 4, 1) := rfl

theorem mmv_0845 : minimaxL 4 [some X, none, none, some O, none, some X, some O, none, some X] O X = (some 1, 1) := by
  rw [minimaxL_succ 3 [some X, none, none, some O, none, some X, some O, none, some X] O X [1, 2, 4, 7] rfl rfl (List.cons_ne_nil _ _)]
  show pickBest [(1, (minimaxL 3 [some X, some O, none, some O, none, some X, some O, none, some X] X O).2), (2, (minimaxL 3 [some X, none, some O, some O, none, some X, some O, none, some X] X O).2), (4, (minimaxL 3 [some X, none, none, some O, some O, some X, some O, none, some X] X O).2), (7, (minimaxL 3 [some X, none, none, some O, none, some X, some O, some O, some X] X O).2)] O = (some 1, 1)
  rw [mmv_0340, mmv_0657, mmv_0830, mmv_0846]
  rfl

theorem mmv_0832 : minimaxL 5 [some X, none, none, some O, none, some X, some O, none, none] X O = (some 8, 1) := by
  rw [minimaxL_succ 4 [some X, none, none, some O, none, some X, some O, none, none] X O [1, 2, 4, 7, 8] rfl rfl (List.cons_ne_nil _ _)]
  show pickBest [(1, (minimaxL 4 [some X, some X, none, some O, none, some X, some O, none, none] O X).2), (2, (minimaxL 4 [some X, none, some X, some O, none, some X, some O, none, none] O X).2), (4, (minimaxL 4 [some X, none, none, some O, some X, some X, some O, none, none] O X).2), (7, (minimaxL 4 [some X, none, none, some O, none, some X, some O, some X, none] O X).2), (8, (minimaxL 4 [some X, none, none, some O, none, some X, some O, none, some X] O X).2)] X = (some 8, 1)
  rw [mmv_0833, mmv_0836, mmv_0839, mmv_0841, mmv_0845]
  rfl

theorem mmv_0849 : minimaxL 3 [some X, some X, none, some O, none, some X, none, some O, some O] X O = (some 2, 1) := rfl

theorem mmv_0848 : minimaxL 4 [some X, some X, none, some O, none, some X, none, some O, none] O X = (some 2, 0) := by
  rw [minimaxL_succ 3 [some X, some X, none, some O, none, some X, none, some O, none] O X [2, 4, 6, 8] rfl rfl (List.cons_ne_nil _ _)]
  show pickBest [(2, (minimaxL 3 [some X, some X, some O, some O, none, some X, none, some O, none] X O).2), (4, (minimaxL 3 [some X, some X, none, some O, some O, some X, none, some O, none] X O).2), (6, (minimaxL 3 [some X, some X, none, some O, none, some X, some O, some O, none] X O).2), (8, (minimaxL 3 [some X, some X, none, some O, none, some X, none, some O, some O] X O).2)] O = (some 2, 0)
  rw [mmv_0478, mmv_0802, mmv_0834, mmv_0849]
  rfl

theorem mmv_0851 : minimaxL 3 [some X, none, some X, some O, none, some X, none, some O, some O] X O = (some 1, 1) := rfl

theorem mmv_0850 : minimaxL 4 [some X, none, some X, some O, none, some X, none, some O, none] O X = (some 1, 1) := by
  rw [minimaxL_succ 3 [some X, none, some X, some O, none, some X, none, some O, none] O X [1, 4, 6, 8] rfl rfl (List.cons_ne_nil _ _)]
  show pickBest [(1, (minimaxL 3 [some X, some O, some X, some O, none, some X, none, some O, none] X O).2), (4, (minimaxL 3 [some X, none, some X, some O, some O, some X, none, some O, none] X O).2), (6, (minimaxL 3 [some X, none, some X, some O, none, some X, some O, some O, none] X O).2), (8, (minimaxL 3 [some X, none, some X, some O, none, some X, none, some O, some O] X O).2)] O = (some 1, 1)
  rw [mmv_0014, mmv_0806, mmv_0837, mmv_0851]
  rfl

theorem mmv_0852 : minimaxL 4 [some X, none, none, some O, some X, some X, none, some O, none] O X = (some 8, 0) := by
  rw [minimaxL_succ 3 [some X, none, none, some O, some X, some X, none, some O, none] O X [1, 2, 6, 8] rfl rfl (List.cons_ne_nil _ _)]
  show pickBest [(1, (minimaxL 3 [some X, some O, none, some O, some X, some X, none, some O, none] X O).2), (2, (minimaxL 3 [some X, none, some O, some O, some X, some X, none, some O, none] X O).2), (6, (minimaxL 3 [some X, none, none, some O, some X, some X, some O, some O, none] X O).2), (8, (minimaxL 3 [some X, none, none, some O, some X, some X, none, some O, some O] X O).2)] O = (some 8, 0)
  rw [mmv_0318, mmv_0636, mmv_0840, mmv_0788]
  rfl

theorem mmv_0855 : minimaxL 2 [some X, some X, none, some O, none, some X, some X, some O, some O] O X = (some 2, 0) := by
  rw [minimaxL_succ 1 [some X, some X, none, some O, none, some X, some X, some O, some O] O X [2, 4] rfl rfl (List.cons_ne_nil _ _)]
  show pickBest [(2, (minimaxL 1 [some X, some X, some O, some O, none, some X, some X, some O, some O] X O).2), (4, (minimaxL 1 [some X, some X, none, some O, some O, some X, some X, some O, some O] X O).2)] O = (some 2, 0)
  rw [mmv_0483, mmv_0811]
  rfl

theorem mmv_0856 : minimaxL 2 [some X, none, some X, some O, none, some X, some X, some O, some O] O X = (some 1, 1) := by
  rw [minimaxL_succ 1 [some X, none, some X, some O, none, some X, some X, some O, some O] O X [1, 4] rfl rfl (List.cons_ne_nil _ _)]
  show pickBest [(1, (minimaxL 1 [some X, some O, some X, some O, none, some X, some X, some O, some O] X O).2), (4, (minimaxL 1 [some X, none, some X, some O, some O, some X, some X, some O, some O] X O).2)] O = (some 1, 1)
  rw [mmv_0023, mmv_0817]
  rfl

theorem mmv_0854 : minimaxL 3 [some X, none, none, some O, none, some X, some X, some O, some O] X O = (some 2, 1) := by
  rw [minimaxL_succ 2 [some X, none, none, some O, none, some X, some X, some O, some O] X O [1, 2, 4] rfl rfl (List.cons_ne_nil _ _)]
  show pickBest [(1, (minimaxL 2 [some X, some X, none, some O, none, some X, some X, some O, some O] O X).2), (2, (minimaxL 2 [some X, none, some X, some O, none, some X, some X, some O, some O] O X).2), (4, (minimaxL 2 [some X, none, none, some O, some X, some X, some X, some O, some O] O X).2)] X = (some 2, 1)
  rw [mmv_0855, mmv_0856, mmv_0791]
  rfl

theorem mmv_0853 : minimaxL 4 [some X, none, none, some O, none, some X, some X, some O, none] O X = (some 2, 0) := by
  rw [minimaxL_succ 3 [some X, none, none, some O, none, some X, some X, some O, none] O X [1, 2, 4, 8] rfl rfl (List.cons_ne_nil _ _)]
  show pickBest [(1, (minimaxL 3 [some X, some O, none, some O, none, some X, some X, some O, none] X O).2), (2, (minimaxL 3 [some X, none, some O, some O, none, some X, some X, some O, none] X O).2), (4, (minimaxL 3 [some X, none, none, some O, some O, some X, some X, some O, none] X O).2), (8, (minimaxL 3 [some X, none, none, some O, none, some X, some X, some O, some O] X O).2)] O = (some 2, 0)
  rw [mmv_0324, mmv_0643, mmv_0809, mmv_0854]
  rfl

theorem mmv_0857 : minimaxL 4 [some X, none, none, some O, none, some X, none, some O, some X] O X = (some 1, 1) := by
  rw [minimaxL_succ 3 [some X, none, none, some O, none, some X, none, some O, some X] O X [1, 2, 4, 6] rfl rfl (List.cons_ne_nil _ _)]
  show pickBest [(1, (minimaxL 3 [some X, some O, none, some O, none, some X, none, some O, some X] X O).2), (2, (minimaxL 3 [some X, none, some O, some O, none, some X, none, some O, some X] X O).2), (4, (minimaxL 3 [some X, none, none, some O, some O, some X, none, some O, some X] X O).2), (6, (minimaxL 3 [some X, none, none, some O, none, some X, some O, some O, some X] X O).2)] O = (some 1, 1)
  rw [mmv_0341, mmv_0658, mmv_0831, mmv_0846]
  rfl

theorem mmv_0847 : minimaxL 5 [some X, none, none, some O, none, some X, none, some O, none] X O = (some 8, 1) := by
  rw [minimaxL_succ 4 [some X, none, none, some O, none, some X, none, some O, none] X O [1, 2, 4, 6, 8] rfl rfl (List.cons_ne_nil _ _)]
  show pickBest [(1, (minimaxL 4 [some X, some X, none, some O, none, some X, none, some O, none] O X).2), (2, (minimaxL 4 [some X, none, some X, some O, none, some X, none, some O, none] O X).2), (4, (minimaxL 4 [some X, none, none, some O, some X, some X, none, some O, none] O X).2), (6, (minimaxL 4 [some X, none, none, some O, none, some X, some X, some O, none] O X).2), (8, (minimaxL 4 [some X, none, none, some O, none, some X, none, some O, some X] O X).2)] X = (some 8, 1)
  rw [mmv_0848, mmv_0850, mmv_0852, mmv_0853, mmv_0857]
  rfl

theorem mmv_0859 : minimaxL 4 [some X, some X, none, some O, none, some X, none, none, some O] O X = (some 2, 0) := by
  rw [minimaxL_succ 3 [some X, some X, none, some O, none, some X, none, none, some O] O X [2, 4, 6, 7] rfl rfl (List.cons_ne_nil _ _)]
  show pickBest [(2, (minimaxL 3 [some X, some X, some O, some O, none, some X, none, none, some O] X O).2), (4, (minimaxL 3 [some X, some X, none, some O, some O, some X, none, none, some O] X O).2), (6, (minimaxL 3 [some X, some X, none, some O, none, some X, some O, none, some O] X O).2), (7, (minimaxL 3 [some X, some X, none, some O, none, some X, none, some O, some O] X O).2)] O = (some 2, 0)
  rw [mmv_0487, mmv_0803, mmv_0835, mmv_0849]
  rfl

theorem mmv_0860 : minimaxL 4 [some X, none, some X, some O, none, some X, none, none, some O] O X = (some 1, 0) := by
  rw [minimaxL_succ 3 [some X, none, some X, some O, none, some X, none, none, some O] O X [1, 4, 6, 7] rfl rfl (List.cons_ne_nil _ _)]
  show pickBest [(1, (minimaxL 3 [some X, some O, some X, some O, none, some X, none, none, some O] X O).2), (4, (minimaxL 3 [some X, none, some X, some O, some O, some X, none, none, some O] X O).2), (6, (minimaxL 3 [some X, none, some X, some O, none, some X, some O, none, some O] X O).2), (7, (minimaxL 3 [some X, none, some X, some O, none, some X, none, some O, some O] X O).2)] O = (some 1, 0)
  rw [mmv_0015, mmv_0807, mmv_0838, mmv_0851]
  rfl

theorem mmv_0861 : minimaxL 4 [some X, none, none, some O, none, some X, some X, none, some O] O X = (some 1, 0) := by
  rw [minimaxL_succ 3 [some X, none, none, some O, none, some X, some X, none, some O] O X [1, 2, 4, 7] rfl rfl (List.cons_ne_nil _ _)]
  show pickBest [(1, (minimaxL 3 [some X, some O, none, some O, none, some X, some X, none, some O] X O).2), (2, (minimaxL 3 [some X, none, some O, some O, none, some X, some X, none, some O] X O).2), (4, (minimaxL 3 [some X, none, none, some O, some O, some X, some X, none, some O] X O).2), (7, (minimaxL 3 [some X, none, none, some O, none, some X, some X, some O, some O] X O).2)] O = (some 1, 0)
  rw [mmv_0328, mmv_0646, mmv_0814, mmv_0854]
  rfl

theorem mmv_0862 : minimaxL 4 [some X, none, none, some O, none, some X, none, some X, some O] O X = (some 1, 0) := by
  rw [minimaxL_succ 3 [some X, none, none, some O, none, some X, none, some X, some O] O X [1, 2, 4, 6] rfl rfl (List.cons_ne_nil _ _)]
  show pickBest [(1, (minimaxL 3 [some X, some O, none, some O, none, some X, none, some X, some O] X O).2), (2, (minimaxL 3 [some X, none, some O, some O, none, some X, none, some X, some O] X O).2), (4, (minimaxL 3 [some X, none, none, some O, some O, some X, none, some X, some O] X O).2), (6, (minimaxL 3 [some X, none, none, some O, none, some X, some O, some X, some O] X O).2)] O = (some 1, 0)
  rw [mmv_0337, mmv_0654, mmv_0825, mmv_0842]
  rfl

theorem mmv_0858 : minimaxL 5 [some X, none, none, some O, none, some X, none, none, some O] X O = (some 7, 0) := by
  rw [minimaxL_succ 4 [some X, none, none, some O, none, some X, none, none, some O] X O [1, 2, 4, 6, 7] rfl rfl (List.cons_ne_nil _ _)]
  show pickBest [(1, (minimaxL 4 [some X, some X, none, some O, none, some X, none, none, some O] O X).2), (2, (minimaxL 4 [some X, none, some X, some O, none, some X, none, none, some O] O X).2), (4, (minimaxL 4 [some X, none, none, some O, some X, some X, none, none, some O] O X).2), (6, (minimaxL 4 [some X, none, none, some O, none, some X, some X, none, some O] O X).2), (7, (minimaxL 4 [some X, none, none, some O, none, some X, none, some X, some O] O X).2)] X = (some 7, 0)
  rw [mmv_0859, mmv_0860, mmv_0783, mmv_0861, mmv_0862]
  rfl

theorem mmv_0798 : minimaxL 6 [some X, none, none, some O, none, some X, none, none, none] O X = (some 2, 0) := by
  rw [minimaxL_succ 5 [some X, none, none, some O, none, some X, none, none, none] O X [1, 2, 4, 6, 7, 8] rfl rfl (List.cons_ne_nil _ _)]
  show pickBest [(1, (minimaxL 5 [some X, some O, none, some O, none, some X, none, none, none] X O).2), (2, (minimaxL 5 [some X, none, some O, some O, none, some X, none, none, none] X O).2), (4, (minimaxL 5 [some X, none, none, some O, some O, some X, none, none, none] X O).2), (6, (minimaxL 5 [some X, none, none, some O, none, some X, some O, none, none] X O).2), (7, (minimaxL 5 [some X, none, none, some O, none, some X, none, some O, none] X O).2), (8, (minimaxL 5 [some X, none, none, some O, none, some X, none, none, some O] X O).2)] O = (some 2, 0)
  rw [mmv_0315, mmv_0633, mmv_0799, mmv_0832, mmv_0847, mmv_0858]
  rfl

theorem mmv_0865 : minimaxL 4 [some X, some X, none, some O, some O, none, some X, none, none] O X = (some 5, -1) := rfl

theorem mmv_0866 : minimaxL 4 [some X, none, some X, some O, some O, none, some X, none, none] O X = (some 5, -1) := rfl

theorem mmv_0867 : minimaxL 4 [some X, none, none, some O, some O, none, some X, some X, none] O X = (some 5, -1) := rfl

theorem mmv_0868 : minimaxL 4 [some X, none, none, some O, some O, none, some X, none, some X] O X = (some 5, -1) := rfl

theorem mmv_0864 : minimaxL 5 [some X, none, none, some O, some O, none, some X, none, none] X O = (some 5, 0) := by
  rw [minimaxL_succ 4 [some X, none, none, some O, some O, none, some X, none, none] X O [1, 2, 5, 7, 8] rfl rfl (List.cons_ne_nil _ _)]
  show pickBest [(1, (minimaxL 4 [some X, some X, none, some O, some O, none, some X, none, none] O X).2), (2, (minimaxL 4 [some X, none, some X, some O, some O, none, some X, none, none] O X).2), (5, (minimaxL 4 [some X, none, none, some O, some O, some X, some X, none, none] O X).2), (7, (minimaxL 4 [some X, none, none, some O, some O, none, some X, some X, none] O X).2), (8, (minimaxL 4 [some X, none, none, some O, some O, none, some X, none, some X] O X).2)] X = (some 5, 0)
  rw [mmv_0865, mmv_0866, mmv_0808, mmv_0867, mmv_0868]
  rfl

theorem mmv_0870 : minimaxL 4 [some X, some X, none, some O, none, some O, some X, none, none] O X = (some 4, -1) := rfl

theorem mmv_0871 : minimaxL 4 [some X, none, some X, some O, none, some O, some X, none, none] O X = (some 4, -1) := rfl

theorem mmv_0873 : minimaxL 3 [some X, none, none, some O, some X, some O, some X, some O, none] X O = (some 8, 1) := rfl

theorem mmv_0872 : minimaxL 4 [some X, none, none, some O, some X, some O, some X, none, none] O X = (some 1, 1) := by
  rw [minimaxL_succ 3 [some X, none, none, some O, some X, some O, some X, none, none] O X [1, 2, 7, 8] rfl rfl (List.cons_ne_nil _ _)]
  show pickBest [(1, (minimaxL 3 [some X, some O, none, some O, some X, some O, some X, none, none] X O).2), (2, (minimaxL 3 [some X, none, some O, some O, some X, some O, some X, none, none] X O).2), (7, (minimaxL 3 [some X, none, none, some O, some X, some O, some X, some O, none] X O).2), (8, (minimaxL 3 [some X, none, none, some O, some X, some O, some X, none, some O] X O).2)] O = (some 1, 1)
  rw [mmv_0378, mmv_0699, mmv_0873, mmv_0793]
  rfl

theorem mmv_0874 : minimaxL 4 [some X, none, none, some O, none, some O, some X, some X, none] O X = (some 4, -1) := rfl

theorem mmv_0875 : minimaxL 4 [some X, none, none, some O, none, some O, some X, none, some X] O X = (some 4, -1) := rfl

theorem mmv_0869 : minimaxL 5 [some X, none, none, some O, none, some O, some X, none, none] X O = (some 4, 1) := by
  rw [minimaxL_succ 4 [some X, none, none, some O, none, some O, some X, none, none] X O [1, 2, 4, 7, 8] rfl rfl (List.cons_ne_nil _ _)]
  show pickBest [(1, (minimaxL 4 [some X, some X, none, some O, none, some O, some X, none, none] O X).2), (2, (minimaxL 4 [some X, none, some X, some O, none, some O, some X, none, none] O X).2), (4, (minimaxL 4 [some X, none, none, some O, some X, some O, some X, none, none] O X).2), (7, (minimaxL 4 [some X, none, none, some O, none, some O, some X, some X, none] O X).2), (8, (minimaxL 4 [some X, none, none, some O, none, some O, some X, none, some X] O X).2)] X = (some 4, 1)
  rw [mmv_0870, mmv_0871, mmv_0872, mmv_0874, mmv_0875]
  rfl

theorem mmv_0878 : minimaxL 3 [some X, some X, none, some O, some O, none, some X, some O, none] X O = (some 2, 1) := rfl

theorem mmv_0879 : minimaxL 3 [some X, some X, none, some O, none, some O, some X, some O, none] X O = (some 2, 1) := rfl

theorem mmv_0880 : minimaxL 3 [some X, some X, none, some O, none, none, some X, some O, some O] X O = (some 2, 1) := rfl

theorem mmv_0877 : minimaxL 4 [some X, some X, none, some O, none, none, some X, some O, none] O X = (some 2, 0) := by
  rw [minimaxL_succ 3 [some X, some X, none, some O, none, none, some X, some O, none] O X [2, 4, 5, 8] rfl rfl (List.cons_ne_nil _ _)]
  show pickBest [(2, (minimaxL 3 [some X, some X, some O, some O, none, none, some X, some O, none] X O).2), (4, (minimaxL 3 [some X, some X, none, some O, some O, none, some X, some O, none] X O).2), (5, (minimaxL 3 [some X, some X, none, some O, none, some O, some X, some O, none] X O).2), (8, (minimaxL 3 [some X, some X, none, some O, none, none, some X, some O, some O] X O).2)] O = (some 2, 0)
  rw [mmv_0501, mmv_0878, mmv_0879, mmv_0880]
  rfl

theorem mmv_0882 : minimaxL 3 [some X, none, some X, some O, some O, none, some X, some O, none] X O = (some 1, 1) := rfl

theorem mmv_0883 : minimaxL 3 [some X, none, some X, some O, none, some O, some X, some O, none] X O = (some 1, 1) := rfl

theorem mmv_0884 : minimaxL 3 [some X, none, some X, some O, none, none, some X, some O, some O] X O = (some 1, 1) := rfl

theorem mmv_0881 : minimaxL 4 [some X, none, some X, some O, none, none, some X, some O, none] O X = (some 1, 1) := by
  rw [minimaxL_succ 3 [some X, none, some X, some O, none, none, some X, some O, none] O X [1, 4, 5, 8] rfl rfl (List.cons_ne_nil _ _)]
  show pickBest [(1, (minimaxL 3 [some X, some O, some X, some O, none, none, some X, some O, none] X O).2), (4, (minimaxL 3 [some X, none, some X, some O, some O, none, some X, some O, none] X O).2), (5, (minimaxL 3 [some X, none, some X, some O, none, some O, some X, some O, none] X O).2), (8, (minimaxL 3 [some X, none, some X, some O, none, none, some X, some O, some O] X O).2)] O = (some 1, 1)
  rw [mmv_0033, mmv_0882, mmv_0883, mmv_0884]
  rfl

theorem mmv_0885 : minimaxL 4 [some X, none, none, some O, some X, none, some X, some O, none] O X = (some 1, 1) := by
  rw [minimaxL_succ 3 [some X, none, none, some O, some X, none, some X, some O, none] O X [1, 2, 5, 8] rfl rfl (List.cons_ne_nil _ _)]
  show pickBest [(1, (minimaxL 3 [some X, some O, none, some O, some X, none, some X, some O, none] X O).2), (2, (minimaxL 3 [some X, none, some O, some O, some X, none, some X, some O, none] X O).2), (5, (minimaxL 3 [some X, none, none, some O, some X, some O, some X, some O, none] X O).2), (8, (minimaxL 3 [some X, none, none, some O, some X, none, some X, some O, some O] X O).2)] O = (some 1, 1)
  rw [mmv_0379, mmv_0700, mmv_0873, mmv_0794]
  rfl

theorem mmv_0888 : minimaxL 2 [some X, some X, none, some O, some O, none, some X, some O, some X] O X = (some 5, -1) := rfl

theorem mmv_0889 : minimaxL 2 [some X, none, some X, some O, some O, none, some X, some O, some X] O X = (some 5, -1) := rfl

theorem mmv_0887 : minimaxL 3 [some X, none, none, some O, some O, none, some X, some O, some X] X O = (some 5, -1) := by
  rw [minimaxL_succ 2 [some X, none, none, some O, some O, none, some X, some O, some X] X O [1, 2, 5] rfl rfl (List.cons_ne_nil _ _)]
  show pickBest [(1, (minimaxL 2 [some X, some X, none, some O, some O, none, some X, some O, some X] O X).2), (2, (minimaxL 2 [some X, none, some X, some O, some O, none, some X, some O, some X] O X).2), (5, (minimaxL 2 [some X, none, none, some O, some O, some X, some X, some O, some X] O X).2)] X = (some 5, -1)
  rw [mmv_0888, mmv_0889, mmv_0813]
  rfl

theorem mmv_0890 : minimaxL 3 [some X, none, none, some O, none, some O, some X, some O, some X] X O = (some 4, 1) := rfl

theorem mmv_0886 : minimaxL 4 [some X, none, none, some O, none, none, some X, some O, some X] O X = (some 4, -1) := by
  rw [minimaxL_succ 3 [some X, none, none, some O, none, none, some X, some O, some X] O X [1, 2, 4, 5] rfl rfl (List.cons_ne_nil _ _)]
  show pickBest [(1, (minimaxL 3 [some X, some O, none, some O, none, none, some X, some O, some X] X O).2), (2, (minimaxL 3 [some X, none, some O, some O, none, none, some X, some O, some X] X O).2), (4, (minimaxL 3 [some X, none, none, some O, some O, none, some X, some O, some X] X O).2), (5, (minimaxL 3 [some X, none, none, some O, none, some O, some X, some O, some X] X O).2)] O = (some 4, -1)
  rw [mmv_0389, mmv_0710, mmv_0887, mmv_0890]
  rfl

theorem mmv_0876 : minimaxL 5 [some X, none, none, some O, none, none, some X, some O, none] X O = (some 4, 1) := by
  rw [minimaxL_succ 4 [some X, none, none, some O, none, none, some X, some O, none] X O [1, 2, 4, 5, 8] rfl rfl (List.cons_ne_nil _ _)]
  show pickBest [(1, (minimaxL 4 [some X, some X, none, some O, none, none, some X, some O, none] O X).2), (2, (minimaxL 4 [some X, none, some X, some O, none, none, some X, some O, none] O X).2), (4, (minimaxL 4 [some X, none, none, some O, some X, none, some X, some O, none] O X).2), (5, (minimaxL 4 [some X, none, none, some O, none, some X, some X, some O, none] O X).2), (8, (minimaxL 4 [some X, none, none, some O, none, none, some X, some O, some X] O X).2)] X = (some 4, 1)
  rw [mmv_0877, mmv_0881, mmv_0885, mmv_0853, mmv_0886]
  rfl

theorem mmv_0893 : minimaxL 3 [some X, some X, none, some O, some O, none, some X, none, some O] X O = (some 2, 1) := rfl

theorem mmv_0894 : minimaxL 3 [some X, some X, none, some O, none, some O, some X, none, some O] X O = (some 2, 1) := rfl

theorem mmv_0892 : minimaxL 4 [some X, some X, none, some O, none, none, some X, none, some O] O X = (some 2, 0) := by
  rw [minimaxL_succ 3 [some X, some X, none, some O, none, none, some X, none, some O] O X [2, 4, 5, 7] rfl rfl (List.cons_ne_nil _ _)]
  show pickBest [(2, (minimaxL 3 [some X, some X, some O, some O, none, none, some X, none, some O] X O).2), (4, (minimaxL 3 [some X, some X, none, some O, some O, none, some X, none, some O] X O).2), (5, (minimaxL 3 [some X, some X, none, some O, none, some O, some X, none, some O] X O).2), (7, (minimaxL 3 [some X, some X, none, some O, none, none, some X, some O, some O] X O).2)] O = (some 2, 0)
  rw [mmv_0508, mmv_0893, mmv_0894, mmv_0880]
  rfl

theorem mmv_0896 : minimaxL 3 [some X, none, some X, some O, some O, none, some X, none, some O] X O = (some 1, 1) := rfl

theorem mmv_0897 : minimaxL 3 [some X, none, some X, some O, none, some O, some X, none, some O] X O = (some 1, 1) := rfl

theorem mmv_0895 : minimaxL 4 [some X, none, some X, some O, none, none, some X, none, some O] O X = (some 1, 1) := by
  rw [minimaxL_succ 3 [some X, none, some X, some O, none, none, some X, none, some O] O X [1, 4, 5, 7] rfl rfl (List.cons_ne_nil _ _)]
  show pickBest [(1, (minimaxL 3 [some X, some O, some X, some O, none, none, some X, none, some O] X O).2), (4, (minimaxL 3 [some X, none, some X, some O, some O, none, some X, none, some O] X O).2), (5, (minimaxL 3 [some X, none, some X, some O, none, some O, some X, none, some O] X O).2), (7, (minimaxL 3 [some X, none, some X, some O, none, none, some X, some O, some O] X O).2)] O = (some 1, 1)
  rw [mmv_0034, mmv_0896, mmv_0897, mmv_0884]
  rfl

theorem mmv_0900 : minimaxL 2 [some X, some X, none, some O, some O, none, some X, some X, some O] O X = (some 5, -1) := rfl

theorem mmv_0901 : minimaxL 2 [some X, none, some X, some O, some O, none, some X, some X, some O] O X = (some 5, -1) := rfl

theorem mmv_0899 : minimaxL 3 [some X, none, none, some O, some O, none, some X, some X, some O] X O = (some 5, 0) := by
  rw [minimaxL_succ 2 [some X, none, none, some O, some O, none, some X, some X, some O] X O [1, 2, 5] rfl rfl (List.cons_ne_nil _ _)]
  show pickBest [(1, (minimaxL 2 [some X, some X, none, some O, some O, none, some X, some X, some O] O X).2), (2, (minimaxL 2 [some X, none, some X, some O, some O, none, some X, some X, some O] O X).2), (5, (minimaxL 2 [some X, none, none, some O, some O, some X, some X, some X, some O] O X).2)] X = (some 5, 0)
  rw [mmv_0900, mmv_0901, mmv_0818]
  rfl

theorem mmv_0903 : minimaxL 2 [some X, some X, none, some O, none, some O, some X, some X, some O] O X = (some 4, -1) := rfl

theorem mmv_0904 : minimaxL 2 [some X, none, some X, some O, none, some O, some X, some X, some O] O X = (some 4, -1) := rfl

theorem mmv_0905 : minimaxL 2 [some X, none, none, some O, some X, some O, some X, some X, some O] O X = (some 2, -1) := rfl

theorem mmv_0902 : minimaxL 3 [some X, none, none, some O, none, some O, some X, some X, some O] X O = (some 4, -1) := by
  rw [minimaxL_succ 2 [some X, none, none, some O, none, some O, some X, some X, some O] X O [1, 2, 4] rfl rfl (List.cons_ne_nil _ _)]
  show pickBest [(1, (minimaxL 2 [some X, some X, none, some O, none, some O, some X, some X, some O] O X).2), (2, (minimaxL 2 [some X, none, some X, some O, none, some O, some X, some X, some O] O X).2), (4, (minimaxL 2 [some X, none, none, some O, some X, some O, some X, some X, some O] O X).2)] X = (some 4, -1)
  rw [mmv_0903, mmv_0904, mmv_0905]
  rfl

theorem mmv_0898 : minimaxL 4 [some X, none, none, some O, none, none, some X, some X, some O] O X = (some 5, -1) := by
  rw [minimaxL_succ 3 [some X, none, none, some O, none, none, some X, some X, some O] O X [1, 2, 4, 5] rfl rfl (List.cons_ne_nil _ _)]
  show pickBest [(1, (minimaxL 3 [some X, some O, none, some O, none, none, some X, some X, some O] X O).2), (2, (minimaxL 3 [some X, none, some O, some O, none, none, some X, some X, some O] X O).2), (4, (minimaxL 3 [some X, none, none, some O, some O, none, some X, some X, some O] X O).2), (5, (minimaxL 3 [some X, none, none, some O, none, some O, some X, some X, some O] X O).2)] O = (some 5, -1)
  rw [mmv_0384, mmv_0706, mmv_0899, mmv_0902]
  rfl

theorem mmv_0891 : minimaxL 5 [some X, none, none, some O, none, none, some X, none, some O] X O = (some 2, 1) := by
  rw [minimaxL_succ 4 [some X, none, none, some O, none, none, some X, none, some O] X O [1, 2, 4, 5, 7] rfl rfl (List.cons_ne_nil _ _)]
  show pickBest [(1, (minimaxL 4 [some X, some X, none, some O, none, none, some X, none, some O] O X).2), (2, (minimaxL 4 [some X, none, some X, some O, none, none, some X, none, some O] O X).2), (4, (minimaxL 4 [some X, none, none, some O, some X, none, some X, none, some O] O X).2), (5, (minimaxL 4 [some X, none, none, some O, none, some X, some X, none, some O] O X).2), (7, (minimaxL 4 [some X, none, none, some O, none, none, some X, some X, some O] O X).2)] X = (some 2, 1)
  rw [mmv_0892, mmv_0895, mmv_0792, mmv_0861, mmv_0898]
  rfl

theorem mmv_0863 : minimaxL 6 [some X, none, none, some O, none, none, some X, none, none] O X = (some 4, 0) := by
  rw [minimaxL_succ 5 [some X, none, none, some O, none, none, some X, none, none] O X [1, 2, 4, 5, 7, 8] rfl rfl (List.cons_ne_nil _ _)]
  show pickBest [(1, (minimaxL 5 [some X, some O, none, some O, none, none, some X, none, none] X O).2), (2, (minimaxL 5 [some X, none, some O, some O, none, none, some X, none, none] X O).2), (4, (minimaxL 5 [some X, none, none, some O, some O, none, some X, none, none] X O).2), (5, (minimaxL 5 [some X, none, none, some O, none, some O, some X, none, none] X O).2), (7, (minimaxL 5 [some X, none, none, some O, none, none, some X, some O, none] X O).2), (8, (minimaxL 5 [some X, none, none, some O, none, none, some X, none, some O] X O).2)] O = (some 4, 0)
  rw [mmv_0375, mmv_0697, mmv_0864, mmv_0869, mmv_0876, mmv_0891]
  rfl

theorem mmv_0908 : minimaxL 4 [some X, some X, none, some O, some O, none, none, some X, none] O X = (some 5, -1) := rfl

theorem mmv_0909 : minimaxL 4 [some X, none, some X, some O, some O, none, none, some X, none] O X = (some 5, -1) := rfl

theorem mmv_0910 : minimaxL 4 [some X, none, none, some O, some O, none, none, some X, some X] O X = (some 5, -1) := rfl

theorem mmv_0907 : minimaxL 5 [some X, none, none, some O, some O, none, none, some X, none] X O = (some 5, 0) := by
  rw [minimaxL_succ 4 [some X, none, none, some O, some O, none, none, some X, none] X O [1, 2, 5, 6, 8] rfl rfl (List.cons_ne_nil _ _)]
  show pickBest [(1, (minimaxL 4 [some X, some X, none, some O, some O, none, none, some X, none] O X).2), (2, (minimaxL 4 [some X, none, some X, some O, some O, none, none, some X, none] O X).2), (5, (minimaxL 4 [some X, none, none, some O, some O, some X, none, some X, none] O X).2), (6, (minimaxL 4 [some X, none, none, some O, some O, none, some X, some X, none] O X).2), (8, (minimaxL 4 [some X, none, none, some O, some O, none, none, some X, some X] O X).2)] X = (some 5, 0)
  rw [mmv_0908, mmv_0909, mmv_0819, mmv_0867, mmv_0910]
  rfl

theorem mmv_0912 : minimaxL 4 [some X, some X, none, some O, none, some O, none, some X, none] O X = (some 4, -1) := rfl

theorem mmv_0913 : minimaxL 4 [some X, none, some X, some O, none, some O, none, some X, none] O X = (some 4, -1) := rfl

theorem mmv_0915 : minimaxL 3 [some X, none, none, some O, some X, some O, some O, some X, none] X O = (some 8, 1) := rfl

theorem mmv_0914 : minimaxL 4 [some X, none, none, some O, some X, some O, none, some X, none] O X = (some 1, 1) := by
  rw [minimaxL_succ 3 [some X, none, none, some O, some X, some O, none, some X, none] O X [1, 2, 6, 8] rfl rfl (List.cons_ne_nil _ _)]
  show pickBest [(1, (minimaxL 3 [some X, some O, none, some O, some X, some O, none, some X, none] X O).2), (2, (minimaxL 3 [some X, none, some O, some O, some X, some O, none, some X, none] X O).2), (6, (minimaxL 3 [some X, none, none, some O, some X, some O, some O, some X, none] X O).2), (8, (minimaxL 3 [some X, none, none, some O, some X, some O, none, some X, some O] X O).2)] O = (some 1, 1)
  rw [mmv_0415, mmv_0718, mmv_0915, mmv_0796]
  rfl

theorem mmv_0916 : minimaxL 4 [some X, none, none, some O, none, some O, none, some X, some X] O X = (some 4, -1) := rfl

theorem mmv_0911 : minimaxL 5 [some X, none, none, some O, none, some O, none, some X, none] X O = (some 4, 1) := by
  rw [minimaxL_succ 4 [some X, none, none, some O, none, some O, none, some X, none] X O [1, 2, 4, 6, 8] rfl rfl (List.cons_ne_nil _ _)]
  show pickBest [(1, (minimaxL 4 [some X, some X, none, some O, none, some O, none, some X, none] O X).2), (2, (minimaxL 4 [some X, none, some X, some O, none, some O, none, some X, none] O X).2), (4, (minimaxL 4 [some X, none, none, some O, some X, some O, none, some X, none] O X).2), (6, (minimaxL 4 [some X, none, none, some O, none, some O, some X, some X, none] O X).2), (8, (minimaxL 4 [some X, none, none, some O, none, some O, none, some X, some X] O X).2)] X = (some 4, 1)
  rw [mmv_0912, mmv_0913, mmv_0914, mmv_0874, mmv_0916]
  rfl

theorem mmv_0919 : minimaxL 3 [some X, some X, none, some O, some O, none, some O, some X, none] X O = (some 2, 1) := rfl

theorem mmv_0920 : minimaxL 3 [some X, some X, none, some O, none, some O, some O, some X, none] X O = (some 2, 1) := rfl

theorem mmv_0921 : minimaxL 3 [some X, some X, none, some O, none, none, some O, some X, some O] X O = (some 2, 1) := rfl

theorem mmv_0918 : minimaxL 4 [some X, some X, none, some O, none, none, some O, some X, none] O X = (some 2, 1) := by
  rw [minimaxL_succ 3 [some X, some X, none, some O, none, none, some O, some X, none] O X [2, 4, 5, 8] rfl rfl (List.cons_ne_nil _ _)]
  show pickBest [(2, (minimaxL 3 [some X, some X, some O, some O, none, none, some O, some X, none] X O).2), (4, (minimaxL 3 [some X, some X, none, some O, some O, none, some O, some X, none] X O).2), (5, (minimaxL 3 [some X, some X, none, some O, none, some O, some O, some X, none] X O).2), (8, (minimaxL 3 [some X, some X, none, some O, none, none, some O, some X, some O] X O).2)] O = (some 2, 1)
  rw [mmv_0515, mmv_0919, mmv_0920, mmv_0921]
  rfl

theorem mmv_0923 : minimaxL 3 [some X, none, some X, some O, some O, none, some O, some X, none] X O = (some 1, 1) := rfl

theorem mmv_0924 : minimaxL 3 [some X, none, some X, some O, none, some O, some O, some X, none] X O = (some 1, 1) := rfl

theorem mmv_0925 : minimaxL 3 [some X, none, some X, some O, none, none, some O, some X, some O] X O = (some 1, 1) := rfl

theorem mmv_0922 : minimaxL 4 [some X, none, some X, some O, none, none, some O, some X, none] O X = (some 1, 1) := by
  rw [minimaxL_succ 3 [some X, none, some X, some O, none, none, some O, some X, none] O X [1, 4, 5, 8] rfl rfl (List.cons_ne_nil _ _)]
  show pickBest [(1, (minimaxL 3 [some X, some O, some X, some O, none, none, some O, some X, none] X O).2), (4, (minimaxL 3 [some X, none, some X, some O, some O, none, some O, some X, none] X O).2), (5, (minimaxL 3 [some X, none, some X, some O, none, some O, some O, some X, none] X O).2), (8, (minimaxL 3 [some X, none, some X, some O, none, none, some O, some X, some O] X O).2)] O = (some 1, 1)
  rw [mmv_0046, mmv_0923, mmv_0924, mmv_0925]
  rfl

theorem mmv_0926 : minimaxL 4 [some X, none, none, some O, some X, none, some O, some X, none] O X = (some 1, 1) := by
  rw [minimaxL_succ 3 [some X, none, none, some O, some X, none, some O, some X, none] O X [1, 2, 5, 8] rfl rfl (List.cons_ne_nil _ _)]
  show pickBest [(1, (minimaxL 3 [some X, some O, none, some O, some X, none, some O, some X, none] X O).2), (2, (minimaxL 3 [some X, none, some O, some O, some X, none, some O, some X, none] X O).2), (5, (minimaxL 3 [some X, none, none, some O, some X, some O, some O, some X, none] X O).2), (8, (minimaxL 3 [some X, none, none, some O, some X, none, some O, some X, some O] X O).2)] O = (some 1, 1)
  rw [mmv_0416, mmv_0719, mmv_0915, mmv_0797]
  rfl

theorem mmv_0929 : minimaxL 2 [some X, some X, none, some O, some O, none, some O, some X, some X] O X = (some 5, -1) := rfl

theorem mmv_0930 : minimaxL 2 [some X, none, some X, some O, some O, none, some O, some X, some X] O X = (some 5, -1) := rfl

theorem mmv_0928 : minimaxL 3 [some X, none, none, some O, some O, none, some O, some X, some X] X O = (some 5, -1) := by
  rw [minimaxL_succ 2 [some X, none, none, some O, some O, none, some O, some X, some X] X O [1, 2, 5] rfl rfl (List.cons_ne_nil _ _)]
  show pickBest [(1, (minimaxL 2 [some X, some X, none, some O, some O, none, some O, some X, some X] O X).2), (2, (minimaxL 2 [some X, none, some X, some O, some O, none, some O, some X, some X] O X).2), (5, (minimaxL 2 [some X, none, none, some O, some O, some X, some O, some X, some X] O X).2)] X = (some 5, -1)
  rw [mmv_0929, mmv_0930, mmv_0824]
  rfl

theorem mmv_0931 : minimaxL 3 [some X, none, none, some O, none, some O, some O, some X, some X] X O = (some 4, 1) := rfl

theorem mmv_0927 : minimaxL 4 [some X, none, none, some O, none, none, some O, some X, some X] O X = (some 4, -1) := by
  rw [minimaxL_succ 3 [some X, none, none, some O, none, none, some O, some X, some X] O X [1, 2, 4, 5] rfl rfl (List.cons_ne_nil _ _)]
  show pickBest [(1, (minimaxL 3 [some X, some O, none, some O, none, none, some O, some X, some X] X O).2), (2, (minimaxL 3 [some X, none, some O, some O, none, none, some O, some X, some X] X O).2), (4, (minimaxL 3 [some X, none, none, some O, some O, none, some O, some X, some X] X O).2), (5, (minimaxL 3 [some X, none, none, some O, none, some O, some O, some X, some X] X O).2)] O = (some 4, -1)
  rw [mmv_0420, mmv_0724, mmv_0928, mmv_0931]
  rfl

theorem mmv_0917 : minimaxL 5 [some X, none, none, some O, none, none, some O, some X, none] X O = (some 5, 1) := by
  rw [minimaxL_succ 4 [some X, none, none, some O, none, none, some O, some X, none] X O [1, 2, 4, 5, 8] rfl rfl (List.cons_ne_nil _ _)]
  show pickBest [(1, (minimaxL 4 [some X, some X, none, some O, none, none, some O, some X, none] O X).2), (2, (minimaxL 4 [some X, none, some X, some O, none, none, some O, some X, none] O X).2), (4, (minimaxL 4 [some X, none, none, some O, some X, none, some O, some X, none] O X).2), (5, (minimaxL 4 [some X, none, none, some O, none, some X, some O, some X, none] O X).2), (8, (minimaxL 4 [some X, none, none, some O, none, none, some O, some X, some X] O X).2)] X = (some 5, 1)
  rw [mmv_0918, mmv_0922, mmv_0926, mmv_0841, mmv_0927]
  rfl

theorem mmv_0934 : minimaxL 3 [some X, some X, none, some O, some O, none, none, some X, some O] X O = (some 2, 1) := rfl

theorem mmv_0935 : minimaxL 3 [some X, some X, none, some O, none, some O, none, some X, some O] X O = (some 2, 1) := rfl

theorem mmv_0933 : minimaxL 4 [some X, some X, none, some O, none, none, none, some X, some O] O X = (some 2, 1) := by
  rw [minimaxL_succ 3 [some X, some X, none, some O, none, none, none, some X, some O] O X [2, 4, 5, 6] rfl rfl (List.cons_ne_nil _ _)]
  show pickBest [(2, (minimaxL 3 [some X, some X, some O, some O, none, none, none, some X, some O] X O).2), (4, (minimaxL 3 [some X, some X, none, some O, some O, none, none, some X, some O] X O).2), (5, (minimaxL 3 [some X, some X, none, some O, none, some O, none, some X, some O] X O).2), (6, (minimaxL 3 [some X, some X, none, some O, none, none, some O, some X, some O] X O).2)] O = (some 2, 1)
  rw [mmv_0516, mmv_0934, mmv_0935, mmv_0921]
  rfl

theorem mmv_0937 : minimaxL 3 [some X, none, some X, some O, some O, none, none, some X, some O] X O = (some 1, 1) := rfl

theorem mmv_0938 : minimaxL 3 [some X, none, some X, some O, none, some O, none, some X, some O] X O = (some 1, 1) := rfl

theorem mmv_0936 : minimaxL 4 [some X, none, some X, some O, none, none, none, some X, some O] O X = (some 1, 0) := by
  rw [minimaxL_succ 3 [some X, none, some X, some O, none, none, none, some X, some O] O X [1, 4, 5, 6] rfl rfl (List.cons_ne_nil _ _)]
  show pickBest [(1, (minimaxL 3 [some X, some O, some X, some O, none, none, none, some X, some O] X O).2), (4, (minimaxL 3 [some X, none, some X, some O, some O, none, none, some X, some O] X O).2), (5, (minimaxL 3 [some X, none, some X, some O, none, some O, none, some X, some O] X O).2), (6, (minimaxL 3 [some X, none, some X, some O, none, none, some O, some X, some O] X O).2)] O = (some 1, 0)
  rw [mmv_0053, mmv_0937, mmv_0938, mmv_0925]
  rfl

theorem mmv_0932 : minimaxL 5 [some X, none, none, some O, none, none, none, some X, some O] X O = (some 1, 1) := by
  rw [minimaxL_succ 4 [some X, none, none, some O, none, none, none, some X, some O] X O [1, 2, 4, 5, 6] rfl rfl (List.cons_ne_nil _ _)]
  show pickBest [(1, (minimaxL 4 [some X, some X, none, some O, none, none, none, some X, some O] O X).2), (2, (minimaxL 4 [some X, none, some X, some O, none, none, none, some X, some O] O X).2), (4, (minimaxL 4 [some X, none, none, some O, some X, none, none, some X, some O] O X).2), (5, (minimaxL 4 [some X, none, none, some O, none, some X, none, some X, some O] O X).2), (6, (minimaxL 4 [some X, none, none, some O, none, none, some X, some X, some O] O X).2)] X = (some 1, 1)
  rw [mmv_0933, mmv_0936, mmv_0795, mmv_0862, mmv_0898]
  rfl

theorem mmv_0906 : minimaxL 6 [some X, none, none, some O, none, none, none, some X, none] O X = (some 4, 0) := by
  rw [minimaxL_succ 5 [some X, none, none, some O, none, none, none, some X, none] O X [1, 2, 4, 5, 6, 8] rfl rfl (List.cons_ne_nil _ _)]
  show pickBest [(1, (minimaxL 5 [some X, some O, none, some O, none, none, none, some X, none] X O).2), (2, (minimaxL 5 [some X, none, some O, some O, none, none, none, some X, none] X O).2), (4, (minimaxL 5 [some X, none, none, some O, some O, none, none, some X, none] X O).2), (5, (minimaxL 5 [some X, none, none, some O, none, some O, none, some X, none] X O).2), (6, (minimaxL 5 [some X, none, none, some O, none, none, some O, some X, none] X O).2), (8, (minimaxL 5 [some X, none, none, some O, none, none, none, some X, some O] X O).2)] O = (some 4, 0)
  rw [mmv_0413, mmv_0716, mmv_0907, mmv_0911, mmv_0917, mmv_0932]
  rfl

theorem mmv_0941 : minimaxL 4 [some X, some X, none, some O, some O, none, none, none, some X] O X = (some 5, -1) := rfl

theorem mmv_0942 : minimaxL 4 [some X, none, some X, some O, some O, none, none, none, some X] O X = (some 5, -1) := rfl

theorem mmv_0940 : minimaxL 5 [some X, none, none, some O, some O, none, none, none, some X] X O = (some 5, 0) := by
  rw [minimaxL_succ 4 [some X, none, none, some O, some O, none, none, none, some X] X O [1, 2, 5, 6, 7] rfl rfl (List.cons_ne_nil _ _)]
  show pickBest [(1, (minimaxL 4 [some X, some X, none, some O, some O, none, none, none, some X] O X).2), (2, (minimaxL 4 [some X, none, some X, some O, some O, none, none, none, some X] O X).2), (5, (minimaxL 4 [some X, none, none, some O, some O, some X, none, none, some X] O X).2), (6, (minimaxL 4 [some X, none, none, some O, some O, none, some X, none, some X] O X).2), (7, (minimaxL 4 [some X, none, none, some O, some O, none, none, some X, some X] O X).2)] X = (some 5, 0)
  rw [mmv_0941, mmv_0942, mmv_0829, mmv_0868, mmv_0910]
  rfl

theorem mmv_0943 : minimaxL 5 [some X, none, none, some O, none, some O, none, none, some X] X O = (some 4, 1) := rfl

theorem mmv_0944 : minimaxL 5 [some X, none, none, some O, none, none, some O, none, some X] X O = (some 4, 1) := rfl

theorem mmv_0945 : minimaxL 5 [some X, none, none, some O, none, none, none, some O, some X] X O = (some 4, 1) := rfl

theorem mmv_0939 : minimaxL 6 [some X, none, none, some O, none, none, none, none, some X] O X = (some 4, 0) := by
  rw [minimaxL_succ 5 [some X, none, none, some O, none, none, none, none, some X] O X [1, 2, 4, 5, 6, 7] rfl rfl (List.cons_ne_nil _ _)]
  show pickBest [(1, (minimaxL 5 [some X, some O, none, some O, none, none, none, none, some X] X O).2), (2, (minimaxL 5 [some X, none, some O, some O, none, none, none, none, some X] X O).2), (4, (minimaxL 5 [some X, none, none, some O, some O, none, none, none, some X] X O).2), (5, (minimaxL 5 [some X, none, none, some O, none, some O, none, none, some X] X O).2), (6, (minimaxL 5 [some X, none, none, some O, none, none, some O, none, some X] X O).2), (7, (minimaxL 5 [some X, none, none, some O, none, none, none, some O, some X] X O).2)] O = (some 4, 0)
  rw [mmv_0448, mmv_0747, mmv_0940, mmv_0943, mmv_0944, mmv_0945]
  rfl

theorem mmv_0757 : minimaxL 7 [some X, none, none, some O, none, none, none, none, none] X O = (some 4, 1) := by
  rw [minimaxL_succ 6 [some X, none, none, some O, none, none, none, none, none] X O [1, 2, 4, 5, 6, 7, 8] rfl rfl (List.cons_ne_nil _ _)]
  show pickBest [(1, (minimaxL 6 [some X, some X, none, some O, none, none, none, none, none] O X).2), (2, (minimaxL 6 [some X, none, some X, some O, none, none, none, none, none] O X).2), (4, (minimaxL 6 [some X, none, none, some O, some X, none, none, none, none] O X).2), (5, (minimaxL 6 [some X, none, none, some O, none, some X, none, none, none] O X).2), (6, (minimaxL 6 [some X, none, none, some O, none, none, some X, none, none] O X).2), (7, (minimaxL 6 [some X, none, none, some O, none, none, none, some X, none] O X).2), (8, (minimaxL 6 [some X, none, none, some O, none, none, none, none, some X] O X).2)] X = (some 4, 1)
  rw [mmv_0758, mmv_0764, mmv_0770, mmv_0798, mmv_0863, mmv_0906, mmv_0939]
  rfl

theorem mmv_0948 : minimaxL 5 [some X, some X, none, none, some O, some O, none, none, none] X O = (some 2, 1) := rfl

theorem mmv_0949 : minimaxL 5 [some X, some X, none, none, some O, none, some O, none, none] X O = (some 2, 1) := rfl

theorem mmv_0950 : minimaxL 5 [some X, some X, none, none, some O, none, none, some O, none] X O = (some 2, 1) := rfl

theorem mmv_0951 : minimaxL 5 [some X, some X, none, none, some O, none, none, none, some O] X O = (some 2, 1) := rfl

theorem mmv_0947 : minimaxL 6 [some X, some X, none, none, some O, none, none, none, none] O X = (some 2, 0) := by
  rw [minimaxL_succ 5 [some X, some X, none, none, some O, none, none, none, none] O X [2, 3, 5, 6, 7, 8] rfl rfl (List.cons_ne_nil _ _)]
  show pickBest [(2, (minimaxL 5 [some X, some X, some O, none, some O, none, none, none, none] X O).2), (3, (minimaxL 5 [some X, some X, none, some O, some O, none, none, none, none] X O).2), (5, (minimaxL 5 [some X, some X, none, none, some O, some O, none, none, none] X O).2), (6, (minimaxL 5 [some X, some X, none, none, some O, none, some O, none, none] X O).2), (7, (minimaxL 5 [some X, some X, none, none, some O, none, none, some O, none] X O).2), (8, (minimaxL 5 [some X, some X, none, none, some O, none, none, none, some O] X O).2)] O = (some 2, 0)
  rw [mmv_0522, mmv_0759, mmv_0948, mmv_0949, mmv_0950, mmv_0951]
  rfl

theorem mmv_0953 : minimaxL 5 [some X, none, some X, none, some O, some O, none, none, none] X O = (some 1, 1) := rfl

theorem mmv_0954 : minimaxL 5 [some X, none, some X, none, some O, none, some O, none, none] X O = (some 1, 1) := rfl

theorem mmv_0955 : minimaxL 5 [some X, none, some X, none, some O, none, none, some O, none] X O = (some 1, 1) := rfl

theorem mmv_0956 : minimaxL 5 [some X, none, some X, none, some O, none, none, none, some O] X O = (some 1, 1) := rfl

theorem mmv_0952 : minimaxL 6 [some X, none, some X, none, some O, none, none, none, none] O X = (some 1, 0) := by
  rw [minimaxL_succ 5 [some X, none, some X, none, some O, none, none, none, none] O X [1, 3, 5, 6, 7, 8] rfl rfl (List.cons_ne_nil _ _)]
  show pickBest [(1, (minimaxL 5 [some X, some O, some X, none, some O, none, none, none, none] X O).2), (3, (minimaxL 5 [some X, none, some X, some O, some O, none, none, none, none] X O).2), (5, (minimaxL 5 [some X, none, some X, none, some O, some O, none, none, none] X O).2), (6, (minimaxL 5 [some X, none, some X, none, some O, none, some O, none, none] X O).2), (7, (minimaxL 5 [some X, none, some X, none, some O, none, none, some O, none] X O).2), (8, (minimaxL 5 [some X, none, some X, none, some O, none, none, none, some O] X O).2)] O = (some 1, 0)
  rw [mmv_0063, mmv_0765, mmv_0953, mmv_0954, mmv_0955, mmv_0956]
  rfl

theorem mmv_0958 : minimaxL 5 [some X, none, none, some X, some O, some O, none, none, none] X O = (some 6, 1) := rfl

theorem mmv_0960 : minimaxL 4 [some X, some X, none, some X, some O, none, some O, none, none] O X = (some 2, -1) := rfl

theorem mmv_0962 : minimaxL 3 [some X, none, some X, some X, some O, some O, some O, none, none] X O = (some 1, 1) := rfl

theorem mmv_0963 : minimaxL 3 [some X, none, some X, some X, some O, none, some O, some O, none] X O = (some 1, 1) := rfl

theorem mmv_0964 : minimaxL 3 [some X, none, some X, some X, some O, none, some O, none, some O] X O = (some 1, 1) := rfl

theorem mmv_0961 : minimaxL 4 [some X, none, some X, some X, some O, none, some O, none, none] O X = (some 1, 0) := by
  rw [minimaxL_succ 3 [some X, none, some X, some X, some O, none, some O, none, none] O X [1, 5, 7, 8] rfl rfl (List.cons_ne_nil _ _)]
  show pickBest [(1, (minimaxL 3 [some X, some O, some X, some X, some O, none, some O, none, none] X O).2), (5, (minimaxL 3 [some X, none, some X, some X, some O, some O, some O, none, none] X O).2), (7, (minimaxL 3 [some X, none, some X, some X, some O, none, some O, some O, none] X O).2), (8, (minimaxL 3 [some X, none, some X, some X, some O, none, some O, none, some O] X O).2)] O = (some 1, 0)
  rw [mmv_0129, mmv_0962, mmv_0963, mmv_0964]
  rfl

theorem mmv_0965 : minimaxL 4 [some X, none, none, some X, some O, some X, some O, none, none] O X = (some 2, -1) := rfl

theorem mmv_0966 : minimaxL 4 [some X, none, none, some X, some O, none, some O, some X, none] O X = (some 2, -1) := rfl

theorem mmv_0967 : minimaxL 4 [some X, none, none, some X, some O, none, some O, none, some X] O X = (some 2, -1) := rfl

theorem mmv_0959 : minimaxL 5 [some X, none, none, some X, some O, none, some O, none, none] X O = (some 2, 0) := by
  rw [minimaxL_succ 4 [some X, none, none, some X, some O, none, some O, none, none] X O [1, 2, 5, 7, 8] rfl rfl (List.cons_ne_nil _ _)]
  show pickBest [(1, (minimaxL 4 [some X, some X, none, some X, some O, none, some O, none, none] O X).2), (2, (minimaxL 4 [some X, none, some X, some X, some O, none, some O, none, none] O X).2), (5, (minimaxL 4 [some X, none, none, some X, some O, some X, some O, none, none] O X).2), (7, (minimaxL 4 [some X, none, none, some X, some O, none, some O, some X, none] O X).2), (8, (minimaxL 4 [some X, none, none, some X, some O, none, some O, none, some X] O X).2)] X = (some 2, 0)
  rw [mmv_0960, mmv_0961, mmv_0965, mmv_0966, mmv_0967]
  rfl

theorem mmv_0968 : minimaxL 5 [some X, none, none, some X, some O, none, none, some O, none] X O = (some 6, 1) := rfl

theorem mmv_0969 : minimaxL 5 [some X, none, none, some X, some O, none, none, none, some O] X O = (some 6, 1) := rfl

theorem mmv_0957 : minimaxL 6 [some X, none, none, some X, some O, none, none, none, none] O X = (some 6, 0) := by
  rw [minimaxL_succ 5 [some X, none, none, some X, some O, none, none, none, none] O X [1, 2, 5, 6, 7, 8] rfl rfl (List.cons_ne_nil _ _)]
  show pickBest [(1, (minimaxL 5 [some X, some O, none, some X, some O, none, none, none, none] X O).2), (2, (minimaxL 5 [some X, none, some O, some X, some O, none, none, none, none] X O).2), (5, (minimaxL 5 [some X, none, none, some X, some O, some O, none, none, none] X O).2), (6, (minimaxL 5 [some X, none, none, some X, some O, none, some O, none, none] X O).2), (7, (minimaxL 5 [some X, none, none, some X, some O, none, none, some O, none] X O).2), (8, (minimaxL 5 [some X, none, none, some X, some O, none, none, none, some O] X O).2)] O = (some 6, 0)
  rw [mmv_0181, mmv_0603, mmv_0958, mmv_0959, mmv_0968, mmv_0969]
  rfl

theorem mmv_0972 : minimaxL 4 [some X, some X, none, none, some O, some X, some O, none, none] O X = (some 2, -1) := rfl

theorem mmv_0974 : minimaxL 3 [some X, none, some X, none, some O, some X, some O, some O, none] X O = (some 1, 1) := rfl

theorem mmv_0975 : minimaxL 3 [some X, none, some X, none, some O, some X, some O, none, some O] X O = (some 1, 1) := rfl

theorem mmv_0973 : minimaxL 4 [some X, none, some X, none, some O, some X, some O, none, none] O X = (some 1, 1) := by
  rw [minimaxL_succ 3 [some X, none, some X, none, some O, some X, some O, none, none] O X [1, 3, 7, 8] rfl rfl (List.cons_ne_nil _ _)]
  show pickBest [(1, (minimaxL 3 [some X, some O, some X, none, some O, some X, some O, none, none] X O).2), (3, (minimaxL 3 [some X, none, some X, some O, some O, some X, some O, none, none] X O).2), (7, (minimaxL 3 [some X, none, some X, none, some O, some X, some O, some O, none] X O).2), (8, (minimaxL 3 [some X, none, some X, none, some O, some X, some O, none, some O] X O).2)] O = (some 1, 1)
  rw [mmv_0146, mmv_0805, mmv_0974, mmv_0975]
  rfl

theorem mmv_0976 : minimaxL 4 [some X, none, none, none, some O, some X, some O, some X, none] O X = (some 2, -1) := rfl

theorem mmv_0977 : minimaxL 4 [some X, none, none, none, some O, some X, some O, none, some X] O X = (some 2, -1) := rfl

theorem mmv_0971 : minimaxL 5 [some X, none, none, none, some O, some X, some O, none, none] X O = (some 2, 1) := by
  rw [minimaxL_succ 4 [some X, none, none, none, some O, some X, some O, none, none] X O [1, 2, 3, 7, 8] rfl rfl (List.cons_ne_nil _ _)]
  show pickBest [(1, (minimaxL 4 [some X, some X, none, none, some O, some X, some O, none, none] O X).2), (2, (minimaxL 4 [some X, none, some X, none, some O, some X, some O, none, none] O X).2), (3, (minimaxL 4 [some X, none, none, some X, some O, some X, some O, none, none] O X).2), (7, (minimaxL 4 [some X, none, none, none, some O, some X, some O, some X, none] O X).2), (8, (minimaxL 4 [some X, none, none, none, some O, some X, some O, none, some X] O X).2)] X = (some 2, 1)
  rw [mmv_0972, mmv_0973, mmv_0965, mmv_0976, mmv_0977]
  rfl

theorem mmv_0980 : minimaxL 3 [some X, some X, none, none, some O, some X, some O, some O, none] X O = (some 2, 1) := rfl

theorem mmv_0981 : minimaxL 3 [some X, some X, none, none, some O, some X, none, some O, some O] X O = (some 2, 1) := rfl

theorem mmv_0979 : minimaxL 4 [some X, some X, none, none, some O, some X, none, some O, none] O X = (some 2, 0) := by
  rw [minimaxL_succ 3 [some X, some X, none, none, some O, some X, none, some O, none] O X [2, 3, 6, 8] rfl rfl (List.cons_ne_nil _ _)]
  show pickBest [(2, (minimaxL 3 [some X, some X, some O, none, some O, some X, none, some O, none] X O).2), (3, (minimaxL 3 [some X, some X, none, some O, some O, some X, none, some O, none] X O).2), (6, (minimaxL 3 [some X, some X, none, none, some O, some X, some O, some O, none] X O).2), (8, (minimaxL 3 [some X, some X, none, none, some O, some X, none, some O, some O] X O).2)] O = (some 2, 0)
  rw [mmv_0568, mmv_0802, mmv_0980, mmv_0981]
  rfl

theorem mmv_0982 : minimaxL 4 [some X, none, some X, none, some O, some X, none, some O, none] O X = (some 1, -1) := rfl

theorem mmv_0983 : minimaxL 4 [some X, none, none, some X, some O, some X, none, some O, none] O X = (some 1, -1) := rfl

theorem mmv_0984 : minimaxL 4 [some X, none, none, none, some O, some X, some X, some O, none] O X = (some 1, -1) := rfl

theorem mmv_0985 : minimaxL 4 [some X, none, none, none, some O, some X, none, some O, some X] O X = (some 1, -1) := rfl

theorem mmv_0978 : minimaxL 5 [some X, none, none, none, some O, some X, none, some O, none] X O = (some 1, 0) := by
  rw [minimaxL_succ 4 [some X, none, none, none, some O, some X, none, some O, none] X O [1, 2, 3, 6, 8] rfl rfl (List.cons_ne_nil _ _)]
  show pickBest [(1, (minimaxL 4 [some X, some X, none, none, some O, some X, none, some O, none] O X).2), (2, (minimaxL 4 [some X, none, some X, none, some O, some X, none, some O, none] O X).2), (3, (minimaxL 4 [some X, none, none, some X, some O, some X, none, some O, none] O X).2), (6, (minimaxL 4 [some X, none, none, none, some O, some X, some X, some O, none] O X).2), (8, (minimaxL 4 [some X, none, none, none, some O, some X, none, some O, some X] O X).2)] X = (some 1, 0)
  rw [mmv_0979, mmv_0982, mmv_0983, mmv_0984, mmv_0985]
  rfl

theorem mmv_0988 : minimaxL 3 [some X, some X, none, none, some O, some X, some O, none, some O] X O = (some 2, 1) := rfl

theorem mmv_0987 : minimaxL 4 [some X, some X, none, none, some O, some X, none, none, some O] O X = (some 2, 0) := by
  rw [minimaxL_succ 3 [some X, some X, none, none, some O, some X, none, none, some O] O X [2, 3, 6, 7] rfl rfl (List.cons_ne_nil _ _)]
  show pickBest [(2, (minimaxL 3 [some X, some X, some O, none, some O, some X, none, none, some O] X O).2), (3, (minimaxL 3 [some X, some X, none, some O, some O, some X, none, none, some O] X O).2), (6, (minimaxL 3 [some X, some X, none, none, some O, some X, some O, none, some O] X O).2), (7, (minimaxL 3 [some X, some X, none, none, some O, some X, none, some O, some O] X O).2)] O = (some 2, 0)
  rw [mmv_0592, mmv_0803, mmv_0988, mmv_0981]
  rfl

theorem mmv_0990 : minimaxL 3 [some X, none, some X, none, some O, some X, none, some O, some O] X O = (some 1, 1) := rfl

theorem mmv_0989 : minimaxL 4 [some X, none, some X, none, some O, some X, none, none, some O] O X = (some 1, 0) := by
  rw [minimaxL_succ 3 [some X, none, some X, none, some O, some X, none, none, some O] O X [1, 3, 6, 7] rfl rfl (List.cons_ne_nil _ _)]
  show pickBest [(1, (minimaxL 3 [some X, some O, some X, none, some O, some X, none, none, some O] X O).2), (3, (minimaxL 3 [some X, none, some X, some O, some O, some X, none, none, some O] X O).2), (6, (minimaxL 3 [some X, none, some X, none, some O, some X, some O, none, some O] X O).2), (7, (minimaxL 3 [some X, none, some X, none, some O, some X, none, some O, some O] X O).2)] O = (some 1, 0)
  rw [mmv_0168, mmv_0807, mmv_0975, mmv_0990]
  rfl

theorem mmv_0993 : minimaxL 2 [some X, some X, none, some X, some O, some X, some O, none, some O] O X = (some 2, -1) := rfl

theorem mmv_0994 : minimaxL 2 [some X, none, some X, some X, some O, some X, some O, none, some O] O X = (some 7, -1) := rfl

theorem mmv_0995 : minimaxL 2 [some X, none, none, some X, some O, some X, some O, some X, some O] O X = (some 2, -1) := rfl

theorem mmv_0992 : minimaxL 3 [some X, none, none, some X, some O, some X, some O, none, some O] X O = (some 7, -1) := by
  rw [minimaxL_succ 2 [some X, none, none, some X, some O, some X, some O, none, some O] X O [1, 2, 7] rfl rfl (List.cons_ne_nil _ _)]
  show pickBest [(1, (minimaxL 2 [some X, some X, none, some X, some O, some X, some O, none, some O] O X).2), (2, (minimaxL 2 [some X, none, some X, some X, some O, some X, some O, none, some O] O X).2), (7, (minimaxL 2 [some X, none, none, some X, some O, some X, some O, some X, some O] O X).2)] X = (some 7, -1)
  rw [mmv_0993, mmv_0994, mmv_0995]
  rfl

theorem mmv_0996 : minimaxL 3 [some X, none, none, some X, some O, some X, none, some O, some O] X O = (some 6, 1) := rfl

theorem mmv_0991 : minimaxL 4 [some X, none, none, some X, some O, some X, none, none, some O] O X = (some 6, -1) := by
  rw [minimaxL_succ 3 [some X, none, none, some X, some O, some X, none, none, some O] O X [1, 2, 6, 7] rfl rfl (List.cons_ne_nil _ _)]
  show pickBest [(1, (minimaxL 3 [some X, some O, none, some X, some O, some X, none, none, some O] X O).2), (2, (minimaxL 3 [some X, none, some O, some X, some O, some X, none, none, some O] X O).2), (6, (minimaxL 3 [some X, none, none, some X, some O, some X, some O, none, some O] X O).2), (7, (minimaxL 3 [some X, none, none, some X, some O, some X, none, some O, some O] X O).2)] O = (some 6, -1)
  rw [mmv_0367, mmv_0686, mmv_0992, mmv_0996]
  rfl

theorem mmv_0998 : minimaxL 3 [some X, none, none, none, some O, some X, some X, some O, some O] X O = (some 3, 1) := rfl

theorem mmv_0997 : minimaxL 4 [some X, none, none, none, some O, some X, some X, none, some O] O X = (some 3, 0) := by
  rw [minimaxL_succ 3 [some X, none, none, none, some O, some X, some X, none, some O] O X [1, 2, 3, 7] rfl rfl (List.cons_ne_nil _ _)]
  show pickBest [(1, (minimaxL 3 [some X, some O, none, none, some O, some X, some X, none, some O] X O).2), (2, (minimaxL 3 [some X, none, some O, none, some O, some X, some X, none, some O] X O).2), (3, (minimaxL 3 [some X, none, none, some O, some O, some X, some X, none, some O] X O).2), (7, (minimaxL 3 [some X, none, none, none, some O, some X, some X, some O, some O] X O).2)] O = (some 3, 0)
  rw [mmv_0370, mmv_0663, mmv_0814, mmv_0998]
  rfl

theorem mmv_1001 : minimaxL 2 [some X, some X, none, none, some O, some X, some O, some X, some O] O X = (some 2, -1) := rfl

theorem mmv_1002 : minimaxL 2 [some X, none, some X, none, some O, some X, some O, some X, some O] O X = (some 1, 0) := by
  rw [minimaxL_succ 1 [some X, none, some X, none, some O, some X, some O, some X, some O] O X [1, 3] rfl rfl (List.cons_ne_nil _ _)]
  show pickBest [(1, (minimaxL 1 [some X, some O, some X, none, some O, some X, some O, some X, some O] X O).2), (3, (minimaxL 1 [some X, none, some X, some O, some O, some X, some O, some X, some O] X O).2)] O = (some 1, 0)
  rw [mmv_0080, mmv_0823]
  rfl

theorem mmv_1000 : minimaxL 3 [some X, none, none, none, some O, some X, some O, some X, some O] X O = (some 2, 0) := by
  rw [minimaxL_succ 2 [some X, none, none, none, some O, some X, some O, some X, some O] X O [1, 2, 3] rfl rfl (List.cons_ne_nil _ _)]
  show pickBest [(1, (minimaxL 2 [some X, some X, none, none, some O, some X, some O, some X, some O] O X).2), (2, (minimaxL 2 [some X, none, some X, none, some O, some X, some O, some X, some O] O X).2), (3, (minimaxL 2 [some X, none, none, some X, some O, some X, some O, some X, some O] O X).2)] X = (some 2, 0)
  rw [mmv_1001, mmv_1002, mmv_0995]
  rfl

theorem mmv_0999 : minimaxL 4 [some X, none, none, none, some O, some X, none, some X, some O] O X = (some 1, 0) := by
  rw [minimaxL_succ 3 [some X, none, none, none, some O, some X, none, some X, some O] O X [1, 2, 3, 6] rfl rfl (List.cons_ne_nil _ _)]
  show pickBest [(1, (minimaxL 3 [some X, some O, none, none, some O, some X, none, some X, some O] X O).2), (2, (minimaxL 3 [some X, none, some O, none, some O, some X, none, some X, some O] X O).2), (3, (minimaxL 3 [some X, none, none, some O, some O, some X, none, some X, some O] X O).2), (6, (minimaxL 3 [some X, none, none, none, some O, some X, some O, some X, some O] X O).2)] O = (some 1, 0)
  rw [mmv_0348, mmv_0690, mmv_0825, mmv_1000]
  rfl

theorem mmv_0986 : minimaxL 5 [some X, none, none, none, some O, some X, none, none, some O] X O = (some 7, 0) := by
  rw [minimaxL_succ 4 [some X, none, none, none, some O, some X, none, none, some O] X O [1, 2, 3, 6, 7] rfl rfl (List.cons_ne_nil _ _)]
  show pickBest [(1, (minimaxL 4 [some X, some X, none, none, some O, some X, none, none, some O] O X).2), (2, (minimaxL 4 [some X, none, some X, none, some O, some X, none, none, some O] O X).2), (3, (minimaxL 4 [some X, none, none, some X, some O, some X, none, none, some O] O X).2), (6, (minimaxL 4 [some X, none, none, none, some O, some X, some X, none, some O] O X).2), (7, (minimaxL 4 [some X, none, none, none, some O, some X, none, some X, some O] O X).2)] X = (some 7, 0)
  rw [mmv_0987, mmv_0989, mmv_0991, mmv_0997, mmv_0999]
  rfl

theorem mmv_0970 : minimaxL 6 [some X, none, none, none, some O, some X, none, none, none] O X = (some 1, 0) := by
  rw [minimaxL_succ 5 [some X, none, none, none, some O, some X, none, none, none] O X [1, 2, 3, 6, 7, 8] rfl rfl (List.cons_ne_nil _ _)]
  show pickBest [(1, (minimaxL 5 [some X, some O, none, none, some O, some X, none, none, none] X O).2), (2, (minimaxL 5 [some X, none, some O, none, some O, some X, none, none, none] X O).2), (3, (minimaxL 5 [some X, none, none, some O, some O, some X, none, none, none] X O).2), (6, (minimaxL 5 [some X, none, none, none, some O, some X, some O, none, none] X O).2), (7, (minimaxL 5 [some X, none, none, none, some O, some X, none, some O, none] X O).2), (8, (minimaxL 5 [some X, none, none, none, some O, some X, none, none, some O] X O).2)] O = (some 1, 0)
  rw [mmv_0342, mmv_0659, mmv_0799, mmv_0971, mmv_0978, mmv_0986]
  rfl

theorem mmv_1004 : minimaxL 5 [some X, none, none, none, some O, some O, some X, none, none] X O = (some 3, 1) := rfl

theorem mmv_1005 : minimaxL 5 [some X, none, none, none, some O, none, some X, some O, none] X O = (some 3, 1) := rfl

theorem mmv_1006 : minimaxL 5 [some X, none, none, none, some O, none, some X, none, some O] X O = (some 3, 1) := rfl

theorem mmv_1003 : minimaxL 6 [some X, none, none, none, some O, none, some X, none, none] O X = (some 3, 0) := by
  rw [minimaxL_succ 5 [some X, none, none, none, some O, none, some X, none, none] O X [1, 2, 3, 5, 7, 8] rfl rfl (List.cons_ne_nil _ _)]
  show pickBest [(1, (minimaxL 5 [some X, some O, none, none, some O, none, some X, none, none] X O).2), (2, (minimaxL 5 [some X, none, some O, none, some O, none, some X, none, none] X O).2), (3, (minimaxL 5 [some X, none, none, some O, some O, none, some X, none, none] X O).2), (5, (minimaxL 5 [some X, none, none, none, some O, some O, some X, none, none] X O).2), (7, (minimaxL 5 [some X, none, none, none, some O, none, some X, some O, none] X O).2), (8, (minimaxL 5 [some X, none, none, none, some O, none, some X, none, some O] X O).2)] O = (some 3, 0)
  rw [mmv_0390, mmv_0711, mmv_0864, mmv_1004, mmv_1005, mmv_1006]
  rfl

theorem mmv_1009 : minimaxL 4 [some X, some X, none, none, some O, some O, none, some X, none] O X = (some 3, -1) := rfl

theorem mmv_1010 : minimaxL 4 [some X, none, some X, none, some O, some O, none, some X, none] O X = (some 3, -1) := rfl

theorem mmv_1012 : minimaxL 3 [some X, none, some O, some X, some O, some O, none, some X, none] X O = (some 6, 1) := rfl

theorem mmv_1014 : minimaxL 2 [some X, some X, none, some X, some O, some O, some O, some X, none] O X = (some 2, -1) := rfl

theorem mmv_1016 : minimaxL 1 [some X, none, some X, some X, some O, some O, some O, some X, some O] X O = (some 1, 1) := rfl

theorem mmv_1015 : minimaxL 2 [some X, none, some X, some X, some O, some O, some O, some X, none] O X = (some 1, 0) := by
  rw [minimaxL_succ 1 [some X, none, some X, some X, some O, some O, some O, some X, none] O X [1, 8] rfl rfl (List.cons_ne_nil _ _)]
  show pickBest [(1, (minimaxL 1 [some X, some O, some X, some X, some O, some O, some O, some X, none] X O).2), (8, (minimaxL 1 [some X, none, some X, some X, some O, some O, some O, some X, some O] X O).2)] O = (some 1, 0)
  rw [mmv_0070, mmv_1016]
  rfl

theorem mmv_1017 : minimaxL 2 [some X, none, none, some X, some O, some O, some O, some X, some X] O X = (some 2, -1) := rfl

theorem mmv_1013 : minimaxL 3 [some X, none, none, some X, some O, some O, some O, some X, none] X O = (some 2, 0) := by
  rw [minimaxL_succ 2 [some X, none, none, some X, some O, some O, some O, some X, none] X O [1, 2, 8] rfl rfl (List.cons_ne_nil _ _)]
  show pickBest [(1, (minimaxL 2 [some X, some X, none, some X, some O, some O, some O, some X, none] O X).2), (2, (minimaxL 2 [some X, none, some X, some X, some O, some O, some O, some X, none] O X).2), (8, (minimaxL 2 [some X, none, none, some X, some O, some O, some O, some X, some X] O X).2)] X = (some 2, 0)
  rw [mmv_1014, mmv_1015, mmv_1017]
  rfl

theorem mmv_1018 : minimaxL 3 [some X, none, none, some X, some O, some O, none, some X, some O] X O = (some 6, 1) := rfl

theorem mmv_1011 : minimaxL 4 [some X, none, none, some X, some O, some O, none, some X, none] O X = (some 6, 0) := by
  rw [minimaxL_succ 3 [some X, none, none, some X, some O, some O, none, some X, none] O X [1, 2, 6, 8] rfl rfl (List.cons_ne_nil _ _)]
  show pickBest [(1, (minimaxL 3 [some X, some O, none, some X, some O, some O, none, some X, none] X O).2), (2, (minimaxL 3 [some X, none, some O, some X, some O, some O, none, some X, none] X O).2), (6, (minimaxL 3 [some X, none, none, some X, some O, some O, some O, some X, none] X O).2), (8, (minimaxL 3 [some X, none, none, some X, some O, some O, none, some X, some O] X O).2)] O = (some 6, 0)
  rw [mmv_0423, mmv_1012, mmv_1013, mmv_1018]
  rfl

theorem mmv_1019 : minimaxL 4 [some X, none, none, none, some O, some O, some X, some X, none] O X = (some 3, -1) := rfl

theorem mmv_1020 : minimaxL 4 [some X, none, none, none, some O, some O, none, some X, some X] O X = (some 3, -1) := rfl

theorem mmv_1008 : minimaxL 5 [some X, none, none, none, some O, some O, none, some X, none] X O = (some 3, 0) := by
  rw [minimaxL_succ 4 [some X, none, none, none, some O, some O, none, some X, none] X O [1, 2, 3, 6, 8] rfl rfl (List.cons_ne_nil _ _)]
  show pickBest [(1, (minimaxL 4 [some X, some X, none, none, some O, some O, none, some X, none] O X).2), (2, (minimaxL 4 [some X, none, some X, none, some O, some O, none, some X, none] O X).2), (3, (minimaxL 4 [some X, none, none, some X, some O, some O, none, some X, none] O X).2), (6, (minimaxL 4 [some X, none, none, none, some O, some O, some X, some X, none] O X).2), (8, (minimaxL 4 [some X, none, none, none, some O, some O, none, some X, some X] O X).2)] X = (some 3, 0)
  rw [mmv_1009, mmv_1010, mmv_1011, mmv_1019, mmv_1020]
  rfl

theorem mmv_1022 : minimaxL 4 [some X, some X, none, none, some O, none, some O, some X, none] O X = (some 2, -1) := rfl

theorem mmv_1024 : minimaxL 3 [some X, none, some X, none, some O, some O, some O, some X, none] X O = (some 1, 1) := rfl

theorem mmv_1025 : minimaxL 3 [some X, none, some X, none, some O, none, some O, some X, some O] X O = (some 1, 1) := rfl

theorem mmv_1023 : minimaxL 4 [some X, none, some X, none, some O, none, some O, some X, none] O X = (some 1, 0) := by
  rw [minimaxL_succ 3 [some X, none, some X, none, some O, none, some O, some X, none] O X [1, 3, 5, 8] rfl rfl (List.cons_ne_nil _ _)]
  show pickBest [(1, (minimaxL 3 [some X, some O, some X, none, some O, none, some O, some X, none] X O).2), (3, (minimaxL 3 [some X, none, some X, some O, some O, none, some O, some X, none] X O).2), (5, (minimaxL 3 [some X, none, some X, none, some O, some O, some O, some X, none] X O).2), (8, (minimaxL 3 [some X, none, some X, none, some O, none, some O, some X, some O] X O).2)] O = (some 1, 0)
  rw [mmv_0075, mmv_0923, mmv_1024, mmv_1025]
  rfl

theorem mmv_1026 : minimaxL 4 [some X, none, none, none, some O, none, some O, some X, some X] O X = (some 2, -1) := rfl

theorem mmv_1021 : minimaxL 5 [some X, none, none, none, some O, none, some O, some X, none] X O = (some 2, 0) := by
  rw [minimaxL_succ 4 [some X, none, none, none, some O, none, some O, some X, none] X O [1, 2, 3, 5, 8] rfl rfl (List.cons_ne_nil _ _)]
  show pickBest [(1, (minimaxL 4 [some X, some X, none, none, some O, none, some O, some X, none] O X).2), (2, (minimaxL 4 [some X, none, some X, none, some O, none, some O, some X, none] O X).2), (3, (minimaxL 4 [some X, none, none, some X, some O, none, some O, some X, none] O X).2), (5, (minimaxL 4 [some X, none, none, none, some O, some X, some O, some X, none] O X).2), (8, (minimaxL 4 [some X, none, none, none, some O, none, some O, some X, some X] O X).2)] X = (some 2, 0)
  rw [mmv_1022, mmv_1023, mmv_0966, mmv_0976, mmv_1026]
  rfl

theorem mmv_1030 : minimaxL 2 [some X, some X, some O, some X, some O, none, none, some X, some O] O X = (some 6, -1) := rfl

theorem mmv_1031 : minimaxL 2 [some X, some X, some O, none, some O, none, some X, some X, some O] O X = (some 5, -1) := rfl

theorem mmv_1029 : minimaxL 3 [some X, some X, some O, none, some O, none, none, some X, some O] X O = (some 6, -1) := by
  rw [minimaxL_succ 2 [some X, some X, some O, none, some O, none, none, some X, some O] X O [3, 5, 6] rfl rfl (List.cons_ne_nil _ _)]
  show pickBest [(3, (minimaxL 2 [some X, some X, some O, some X, some O, none, none, some X, some O] O X).2), (5, (minimaxL 2 [some X, some X, some O, none, some O, some X, none, some X, some O] O X).2), (6, (minimaxL 2 [some X, some X, some O, none, some O, none, some X, some X, some O] O X).2)] X = (some 6, -1)
  rw [mmv_1030, mmv_0595, mmv_1031]
  rfl

theorem mmv_1032 : minimaxL 3 [some X, some X, none, none, some O, some O, none, some X, some O] X O = (some 2, 1) := rfl

theorem mmv_1033 : minimaxL 3 [some X, some X, none, none, some O, none, some O, some X, some O] X O = (some 2, 1) := rfl

theorem mmv_1028 : minimaxL 4 [some X, some X, none, none, some O, none, none, some X, some O] O X = (some 2, -1) := by
  rw [minimaxL_succ 3 [some X, some X, none, none, some O, none, none, some X, some O] O X [2, 3, 5, 6] rfl rfl (List.cons_ne_nil _ _)]
  show pickBest [(2, (minimaxL 3 [some X, some X, some O, none, some O, none, none, some X, some O] X O).2), (3, (minimaxL 3 [some X, some X, none, some O, some O, none, none, some X, some O] X O).2), (5, (minimaxL 3 [some X, some X, none, none, some O, some O, none, some X, some O] X O).2), (6, (minimaxL 3 [some X, some X, none, none, some O, none, some O, some X, some O] X O).2)] O = (some 2, -1)
  rw [mmv_1029, mmv_0934, mmv_1032, mmv_1033]
  rfl

theorem mmv_1035 : minimaxL 3 [some X, none, some X, none, some O, some O, none, some X, some O] X O = (some 1, 1) := rfl

theorem mmv_1034 : minimaxL 4 [some X, none, some X, none, some O, none, none, some X, some O] O X = (some 1, 0) := by
  rw [minimaxL_succ 3 [some X, none, some X, none, some O, none, none, some X, some O] O X [1, 3, 5, 6] rfl rfl (List.cons_ne_nil _ _)]
  show pickBest [(1, (minimaxL 3 [some X, some O, some X, none, some O, none, none, some X, some O] X O).2), (3, (minimaxL 3 [some X, none, some X, some O, some O, none, none, some X, some O] X O).2), (5, (minimaxL 3 [some X, none, some X, none, some O, some O, none, some X, some O] X O).2), (6, (minimaxL 3 [some X, none, some X, none, some O, none, some O, some X, some O] X O).2)] O = (some 1, 0)
  rw [mmv_0083, mmv_0937, mmv_1035, mmv_1025]
  rfl

theorem mmv_1037 : minimaxL 3 [some X, none, some O, some X, some O, none, none, some X, some O] X O = (some 6, 1) := rfl

theorem mmv_1039 : minimaxL 2 [some X, some X, none, some X, some O, none, some O, some X, some O] O X = (some 2, -1) := rfl

theorem mmv_1040 : minimaxL 2 [some X, none, some X, some X, some O, none, some O, some X, some O] O X = (some 1, 0) := by
  rw [minimaxL_succ 1 [some X, none, some X, some X, some O, none, some O, some X, some O] O X [1, 5] rfl rfl (List.cons_ne_nil _ _)]
  show pickBest [(1, (minimaxL 1 [some X, some O, some X, some X, some O, none, some O, some X, some O] X O).2), (5, (minimaxL 1 [some X, none, some X, some X, some O, some O, some O, some X, some O] X O).2)] O = (some 1, 0)
  rw [mmv_0077, mmv_1016]
  rfl

theorem mmv_1038 : minimaxL 3 [some X, none, none, some X, some O, none, some O, some X, some O] X O = (some 2, 0) := by
  rw [minimaxL_succ 2 [some X, none, none, some X, some O, none, some O, some X, some O] X O [1, 2, 5] rfl rfl (List.cons_ne_nil _ _)]
  show pickBest [(1, (minimaxL 2 [some X, some X, none, some X, some O, none, some O, some X, some O] O X).2), (2, (minimaxL 2 [some X, none, some X, some X, some O, none, some O, some X, some O] O X).2), (5, (minimaxL 2 [some X, none, none, some X, some O, some X, some O, some X, some O] O X).2)] X = (some 2, 0)
  rw [mmv_1039, mmv_1040, mmv_0995]
  rfl

theorem mmv_1036 : minimaxL 4 [some X, none, none, some X, some O, none, none, some X, some O] O X = (some 6, 0) := by
  rw [minimaxL_succ 3 [some X, none, none, some X, some O, none, none, some X, some O] O X [1, 2, 5, 6] rfl rfl (List.cons_ne_nil _ _)]
  show pickBest [(1, (minimaxL 3 [some X, some O, none, some X, some O, none, none, some X, some O] X O).2), (2, (minimaxL 3 [some X, none, some O, some X, some O, none, none, some X, some O] X O).2), (5, (minimaxL 3 [some X, none, none, some X, some O, some O, none, some X, some O] X O).2), (6, (minimaxL 3 [some X, none, none, some X, some O, none, some O, some X, some O] X O).2)] O = (some 6, 0)
  rw [mmv_0424, mmv_1037, mmv_1018, mmv_1038]
  rfl

theorem mmv_1042 : minimaxL 3 [some X, none, none, none, some O, some O, some X, some X, some O] X O = (some 3, 1) := rfl

theorem mmv_1041 : minimaxL 4 [some X, none, none, none, some O, none, some X, some X, some O] O X = (some 3, 0) := by
  rw [minimaxL_succ 3 [some X, none, none, none, some O, none, some X, some X, some O] O X [1, 2, 3, 5] rfl rfl (List.cons_ne_nil _ _)]
  show pickBest [(1, (minimaxL 3 [some X, some O, none, none, some O, none, some X, some X, some O] X O).2), (2, (minimaxL 3 [some X, none, some O, none, some O, none, some X, some X, some O] X O).2), (3, (minimaxL 3 [some X, none, none, some O, some O, none, some X, some X, some O] X O).2), (5, (minimaxL 3 [some X, none, none, none, some O, some O, some X, some X, some O] X O).2)] O = (some 3, 0)
  rw [mmv_0427, mmv_0729, mmv_0899, mmv_1042]
  rfl

theorem mmv_1027 : minimaxL 5 [some X, none, none, none, some O, none, none, some X, some O] X O = (some 6, 0) := by
  rw [minimaxL_succ 4 [some X, none, none, none, some O, none, none, some X, some O] X O [1, 2, 3, 5, 6] rfl rfl (List.cons_ne_nil _ _)]
  show pickBest [(1, (minimaxL 4 [some X, some X, none, none, some O, none, none, some X, some O] O X).2), (2, (minimaxL 4 [some X, none, some X, none, some O, none, none, some X, some O] O X).2), (3, (minimaxL 4 [some X, none, none, some X, some O, none, none, some X, some O] O X).2), (5, (minimaxL 4 [some X, none, none, none, some O, some X, none, some X, some O] O X).2), (6, (minimaxL 4 [some X, none, none, none, some O, none, some X, some X, some O] O X).2)] X = (some 6, 0)
  rw [mmv_1028, mmv_1034, mmv_1036, mmv_0999, mmv_1041]
  rfl

theorem mmv_1007 : minimaxL 6 [some X, none, none, none, some O, none, none, some X, none] O X = (some 3, 0) := by
  rw [minimaxL_succ 5 [some X, none, none, none, some O, none, none, some X, none] O X [1, 2, 3, 5, 6, 8] rfl rfl (List.cons_ne_nil _ _)]
  show pickBest [(1, (minimaxL 5 [some X, some O, none, none, some O, none, none, some X, none] X O).2), (2, (minimaxL 5 [some X, none, some O, none, some O, none, none, some X, none] X O).2), (3, (minimaxL 5 [some X, none, none, some O, some O, none, none, some X, none] X O).2), (5, (minimaxL 5 [some X, none, none, none, some O, some O, none, some X, none] X O).2), (6, (minimaxL 5 [some X, none, none, none, some O, none, some O, some X, none] X O).2), (8, (minimaxL 5 [some X, none, none, none, some O, none, none, some X, some O] X O).2)] O = (some 3, 0)
  rw [mmv_0421, mmv_0725, mmv_0907, mmv_1008, mmv_1021, mmv_1027]
  rfl

theorem mmv_1045 : minimaxL 4 [some X, some X, none, none, some O, some O, none, none, some X] O X = (some 3, -1) := rfl

theorem mmv_1046 : minimaxL 4 [some X, none, some X, none, some O, some O, none, none, some X] O X = (some 3, -1) := rfl

theorem mmv_1048 : minimaxL 3 [some X, some O, none, some X, some O, some O, none, none, some X] X O = (some 6, 1) := rfl

theorem mmv_1049 : minimaxL 3 [some X, none, some O, some X, some O, some O, none, none, some X] X O = (some 6, 1) := rfl

theorem mmv_1051 : minimaxL 2 [some X, some X, none, some X, some O, some O, some O, none, some X] O X = (some 2, -1) := rfl

theorem mmv_1053 : minimaxL 1 [some X, none, some X, some X, some O, some O, some O, some O, some X] X O = (some 1, 1) := rfl

theorem mmv_1052 : minimaxL 2 [some X, none, some X, some X, some O, some O, some O, none, some X] O X = (some 1, 0) := by
  rw [minimaxL_succ 1 [some X, none, some X, some X, some O, some O, some O, none, some X] O X [1, 7] rfl rfl (List.cons_ne_nil _ _)]
  show pickBest [(1, (minimaxL 1 [some X, some O, some X, some X, some O, some O, some O, none, some X] X O).2), (7, (minimaxL 1 [some X, none, some X, some X, some O, some O, some O, some O, some X] X O).2)] O = (some 1, 0)
  rw [mmv_0100, mmv_1053]
  rfl

theorem mmv_1050 : minimaxL 3 [some X, none, none, some X, some O, some O, some O, none, some X] X O = (some 2, 0) := by
  rw [minimaxL_succ 2 [some X, none, none, some X, some O, some O, some O, none, some X] X O [1, 2, 7] rfl rfl (List.cons_ne_nil _ _)]
  show pickBest [(1, (minimaxL 2 [some X, some X, none, some X, some O, some O, some O, none, some X] O X).2), (2, (minimaxL 2 [some X, none, some X, some X, some O, some O, some O, none, some X] O X).2), (7, (minimaxL 2 [some X, none, none, some X, some O, some O, some O, some X, some X] O X).2)] X = (some 2, 0)
  rw [mmv_1051, mmv_1052, mmv_1017]
  rfl

theorem mmv_1054 : minimaxL 3 [some X, none, none, some X, some O, some O, none, some O, some X] X O = (some 6, 1) := rfl

theorem mmv_1047 : minimaxL 4 [some X, none, none, some X, some O, some O, none, none, some X] O X = (some 6, 0) := by
  rw [minimaxL_succ 3 [some X, none, none, some X, some O, some O, none, none, some X] O X [1, 2, 6, 7] rfl rfl (List.cons_ne_nil _ _)]
  show pickBest [(1, (minimaxL 3 [some X, some O, none, some X, some O, some O, none, none, some X] X O).2), (2, (minimaxL 3 [some X, none, some O, some X, some O, some O, none, none, some X] X O).2), (6, (minimaxL 3 [some X, none, none, some X, some O, some O, some O, none, some X] X O).2), (7, (minimaxL 3 [some X, none, none, some X, some O, some O, none, some O, some X] X O).2)] O = (some 6, 0)
  rw [mmv_1048, mmv_1049, mmv_1050, mmv_1054]
  rfl

theorem mmv_1055 : minimaxL 4 [some X, none, none, none, some O, some O, some X, none, some X] O X = (some 3, -1) := rfl

theorem mmv_1044 : minimaxL 5 [some X, none, none, none, some O, some O, none, none, some X] X O = (some 3, 0) := by
  rw [minimaxL_succ 4 [some X, none, none, none, some O, some O, none, none, some X] X O [1, 2, 3, 6, 7] rfl rfl (List.cons_ne_nil _ _)]
  show pickBest [(1, (minimaxL 4 [some X, some X, none, none, some O, some O, none, none, some X] O X).2), (2, (minimaxL 4 [some X, none, some X, none, some O, some O, none, none, some X] O X).2), (3, (minimaxL 4 [some X, none, none, some X, some O, some O, none, none, some X] O X).2), (6, (minimaxL 4 [some X, none, none, none, some O, some O, some X, none, some X] O X).2), (7, (minimaxL 4 [some X, none, none, none, some O, some O, none, some X, some X] O X).2)] X = (some 3, 0)
  rw [mmv_1045, mmv_1046, mmv_1047, mmv_1055, mmv_1020]
  rfl

theorem mmv_1057 : minimaxL 4 [some X, some X, none, none, some O, none, some O, none, some X] O X = (some 2, -1) := rfl

theorem mmv_1059 : minimaxL 3 [some X, none, some X, some O, some O, none, some O, none, some X] X O = (some 1, 1) := rfl

theorem mmv_1060 : minimaxL 3 [some X, none, some X, none, some O, some O, some O, none, some X] X O = (some 1, 1) := rfl

theorem mmv_1061 : minimaxL 3 [some X, none, some X, none, some O, none, some O, some O, some X] X O = (some 1, 1) := rfl

theorem mmv_1058 : minimaxL 4 [some X, none, some X, none, some O, none, some O, none, some X] O X = (some 1, 1) := by
  rw [minimaxL_succ 3 [some X, none, some X, none, some O, none, some O, none, some X] O X [1, 3, 5, 7] rfl rfl (List.cons_ne_nil _ _)]
  show pickBest [(1, (minimaxL 3 [some X, some O, some X, none, some O, none, some O, none, some X] X O).2), (3, (minimaxL 3 [some X, none, some X, some O, some O, none, some O, none, some X] X O).2), (5, (minimaxL 3 [some X, none, some X, none, some O, some O, some O, none, some X] X O).2), (7, (minimaxL 3 [some X, none, some X, none, some O, none, some O, some O, some X] X O).2)] O = (some 1, 1)
  rw [mmv_0153, mmv_1059, mmv_1060, mmv_1061]
  rfl

theorem mmv_1056 : minimaxL 5 [some X, none, none, none, some O, none, some O, none, some X] X O = (some 2, 1) := by
  rw [minimaxL_succ 4 [some X, none, none, none, some O, none, some O, none, some X] X O [1, 2, 3, 5, 7] rfl rfl (List.cons_ne_nil _ _)]
  show pickBest [(1, (minimaxL 4 [some X, some X, none, none, some O, none, some O, none, some X] O X).2), (2, (minimaxL 4 [some X, none, some X, none, some O, none, some O, none, some X] O X).2), (3, (minimaxL 4 [some X, none, none, some X, some O, none, some O, none, some X] O X).2), (5, (minimaxL 4 [some X, none, none, none, some O, some X, some O, none, some X] O X).2), (7, (minimaxL 4 [some X, none, none, none, some O, none, some O, some X, some X] O X).2)] X = (some 2, 1)
  rw [mmv_1057, mmv_1058, mmv_0967, mmv_0977, mmv_1026]
  rfl

theorem mmv_1064 : minimaxL 3 [some X, some X, none, some O, some O, none, none, some O, some X] X O = (some 2, 1) := rfl

theorem mmv_1065 : minimaxL 3 [some X, some X, none, none, some O, some O, none, some O, some X] X O = (some 2, 1) := rfl

theorem mmv_1066 : minimaxL 3 [some X, some X, none, none, some O, none, some O, some O, some X] X O = (some 2, 1) := rfl

theorem mmv_1063 : minimaxL 4 [some X, some X, none, none, some O, none, none, some O, some X] O X = (some 2, 0) := by
  rw [minimaxL_succ 3 [some X, some X, none, none, some O, none, none, some O, some X] O X [2, 3, 5, 6] rfl rfl (List.cons_ne_nil _ _)]
  show pickBest [(2, (minimaxL 3 [some X, some X, some O, none, some O, none, none, some O, some X] X O).2), (3, (minimaxL 3 [some X, some X, none, some O, some O, none, none, some O, some X] X O).2), (5, (minimaxL 3 [some X, some X, none, none, some O, some O, none, some O, some X] X O).2), (6, (minimaxL 3 [some X, some X, none, none, some O, none, some O, some O, some X] X O).2)] O = (some 2, 0)
  rw [mmv_0583, mmv_1064, mmv_1065, mmv_1066]
  rfl

theorem mmv_1067 : minimaxL 4 [some X, none, some X, none, some O, none, none, some O, some X] O X = (some 1, -1) := rfl

theorem mmv_1068 : minimaxL 4 [some X, none, none, some X, some O, none, none, some O, some X] O X = (some 1, -1) := rfl

theorem mmv_1069 : minimaxL 4 [some X, none, none, none, some O, none, some X, some O, some X] O X = (some 1, -1) := rfl

theorem mmv_1062 : minimaxL 5 [some X, none, none, none, some O, none, none, some O, some X] X O = (some 1, 0) := by
  rw [minimaxL_succ 4 [some X, none, none, none, some O, none, none, some O, some X] X O [1, 2, 3, 5, 6] rfl rfl (List.cons_ne_nil _ _)]
  show pickBest [(1, (minimaxL 4 [some X, some X, none, none, some O, none, none, some O, some X] O X).2), (2, (minimaxL 4 [some X, none, some X, none, some O, none, none, some O, some X] O X).2), (3, (minimaxL 4 [some X, none, none, some X, some O, none, none, some O, some X] O X).2), (5, (minimaxL 4 [some X, none, none, none, some O, some X, none, some O, some X] O X).2), (6, (minimaxL 4 [some X, none, none, none, some O, none, some X, some O, some X] O X).2)] X = (some 1, 0)
  rw [mmv_1063, mmv_1067, mmv_1068, mmv_0985, mmv_1069]
  rfl

theorem mmv_1043 : minimaxL 6 [some X, none, none, none, some O, none, none, none, some X] O X = (some 1, 0) := by
  rw [minimaxL_succ 5 [some X, none, none, none, some O, none, none, none, some X] O X [1, 2, 3, 5, 6, 7] rfl rfl (List.cons_ne_nil _ _)]
  show pickBest [(1, (minimaxL 5 [some X, some O, none, none, some O, none, none, none, some X] X O).2), (2, (minimaxL 5 [some X, none, some O, none, some O, none, none, none, some X] X O).2), (3, (minimaxL 5 [some X, none, none, some O, some O, none, none, none, some X] X O).2), (5, (minimaxL 5 [some X, none, none, none, some O, some O, none, none, some X] X O).2), (6, (minimaxL 5 [some X, none, none, none, some O, none, some O, none, some X] X O).2), (7, (minimaxL 5 [some X, none, none, none, some O, none, none, some O, some X] X O).2)] O = (some 1, 0)
  rw [mmv_0449, mmv_0748, mmv_0940, mmv_1044, mmv_1056, mmv_1062]
  rfl

theorem mmv_0946 : minimaxL 7 [some X, none, none, none, some O, none, none, none, none] X O = (some 8, 0) := by
  rw [minimaxL_succ 6 [some X, none, none, none, some O, none, none, none, none] X O [1, 2, 3, 5, 6, 7, 8] rfl rfl (List.cons_ne_nil _ _)]
  show pickBest [(1, (minimaxL 6 [some X, some X, none, none, some O, none, none, none, none] O X).2), (2, (minimaxL 6 [some X, none, some X, none, some O, none, none, none, none] O X).2), (3, (minimaxL 6 [some X, none, none, some X, some O, none, none, none, none] O X).2), (5, (minimaxL 6 [some X, none, none, none, some O, some X, none, none, none] O X).2), (6, (minimaxL 6 [some X, none, none, none, some O, none, some X, none, none] O X).2), (7, (minimaxL 6 [some X, none, none, none, some O, none, none, some X, none] O X).2), (8, (minimaxL 6 [some X, none, none, none, some O, none, none, none, some X] O X).2)] X = (some 8, 0)
  rw [mmv_0947, mmv_0952, mmv_0957, mmv_0970, mmv_1003, mmv_1007, mmv_1043]
  rfl

theorem mmv_1072 : minimaxL 5 [some X, some X, none, none, none, some O, some O, none, none] X O = (some 2, 1) := rfl

theorem mmv_1073 : minimaxL 5 [some X, some X, none, none, none, some O, none, some O, none] X O = (some 2, 1) := rfl

theorem mmv_1074 : minimaxL 5 [some X, some X, none, none, none, some O, none, none, some O] X O = (some 2, 1) := rfl

theorem mmv_1071 : minimaxL 6 [some X, some X, none, none, none, some O, none, none, none] O X = (some 2, -1) := by
  rw [minimaxL_succ 5 [some X, some X, none, none, none, some O, none, none, none] O X [2, 3, 4, 6, 7, 8] rfl rfl (List.cons_ne_nil _ _)]
  show pickBest [(2, (minimaxL 5 [some X, some X, some O, none, none, some O, none, none, none] X O).2), (3, (minimaxL 5 [some X, some X, none, some O, none, some O, none, none, none] X O).2), (4, (minimaxL 5 [some X, some X, none, none, some O, some O, none, none, none] X O).2), (6, (minimaxL 5 [some X, some X, none, none, none, some O, some O, none, none] X O).2), (7, (minimaxL 5 [some X, some X, none, none, none, some O, none, some O, none] X O).2), (8, (minimaxL 5 [some X, some X, none, none, none, some O, none, none, some O] X O).2)] O = (some 2, -1)
  rw [mmv_0531, mmv_0760, mmv_0948, mmv_1072, mmv_1073, mmv_1074]
  rfl

theorem mmv_1076 : minimaxL 5 [some X, none, some X, none, none, some O, some O, none, none] X O = (some 1, 1) := rfl

theorem mmv_1077 : minimaxL 5 [some X, none, some X, none, none, some O, none, some O, none] X O = (some 1, 1) := rfl

theorem mmv_1078 : minimaxL 5 [some X, none, some X, none, none, some O, none, none, some O] X O = (some 1, 1) := rfl

theorem mmv_1075 : minimaxL 6 [some X, none, some X, none, none, some O, none, none, none] O X = (some 1, 1) := by
  rw [minimaxL_succ 5 [some X, none, some X, none, none, some O, none, none, none] O X [1, 3, 4, 6, 7, 8] rfl rfl (List.cons_ne_nil _ _)]
  show pickBest [(1, (minimaxL 5 [some X, some O, some X, none, none, some O, none, none, none] X O).2), (3, (minimaxL 5 [some X, none, some X, some O, none, some O, none, none, none] X O).2), (4, (minimaxL 5 [some X, none, some X, none, some O, some O, none, none, none] X O).2), (6, (minimaxL 5 [some X, none, some X, none, none, some O, some O, none, none] X O).2), (7, (minimaxL 5 [some X, none, some X, none, none, some O, none, some O, none] X O).2), (8, (minimaxL 5 [some X, none, some X, none, none, some O, none, none, some O] X O).2)] O = (some 1, 1)
  rw [mmv_0089, mmv_0766, mmv_0953, mmv_1076, mmv_1077, mmv_1078]
  rfl

theorem mmv_1083 : minimaxL 2 [some X, some X, some O, some X, some X, some O, some O, none, none] O X = (some 8, -1) := rfl

theorem mmv_1084 : minimaxL 2 [some X, some X, some O, some X, none, some O, some O, some X, none] O X = (some 8, -1) := rfl

theorem mmv_1085 : minimaxL 2 [some X, some X, some O, some X, none, some O, some O, none, some X] O X = (some 4, -1) := rfl

theorem mmv_1082 : minimaxL 3 [some X, some X, some O, some X, none, some O, some O, none, none] X O = (some 8, -1) := by
  rw [minimaxL_succ 2 [some X, some X, some O, some X, none, some O, some O, none, none] X O [4, 7, 8] rfl rfl (List.cons_ne_nil _ _)]
  show pickBest [(4, (minimaxL 2 [some X, some X, some O, some X, some X, some O, some O, none, none] O X).2), (7, (minimaxL 2 [some X, some X, some O, some X, none, some O, some O, some X, none] O X).2), (8, (minimaxL 2 [some X, some X, some O, some X, none, some O, some O, none, some X] O X).2)] X = (some 8, -1)
  rw [mmv_1083, mmv_1084, mmv_1085]
  rfl

theorem mmv_1086 : minimaxL 3 [some X, some X, none, some X, some O, some O, some O, none, none] X O = (some 2, 1) := rfl

theorem mmv_1087 : minimaxL 3 [some X, some X, none, some X, none, some O, some O, some O, none] X O = (some 2, 1) := rfl

theorem mmv_1088 : minimaxL 3 [some X, some X, none, some X, none, some O, some O, none, some O] X O = (some 2, 1) := rfl

theorem mmv_1081 : minimaxL 4 [some X, some X, none, some X, none, some O, some O, none, none] O X = (some 2, -1) := by
  rw [minimaxL_succ 3 [some X, some X, none, some X, none, some O, some O, none, none] O X [2, 4, 7, 8] rfl rfl (List.cons_ne_nil _ _)]
  show pickBest [(2, (minimaxL 3 [some X, some X, some O, some X, none, some O, some O, none, none] X O).2), (4, (minimaxL 3 [some X, some X, none, some X, some O, some O, some O, none, none] X O).2), (7, (minimaxL 3 [some X, some X, none, some X, none, some O, some O, some O, none] X O).2), (8, (minimaxL 3 [some X, some X, none, some X, none, some O, some O, none, some O] X O).2)] O = (some 2, -1)
  rw [mmv_1082, mmv_1086, mmv_1087, mmv_1088]
  rfl

theorem mmv_1090 : minimaxL 3 [some X, none, some X, some X, none, some O, some O, some O, none] X O = (some 1, 1) := rfl

theorem mmv_1091 : minimaxL 3 [some X, none, some X, some X, none, some O, some O, none, some O] X O = (some 1, 1) := rfl

theorem mmv_1089 : minimaxL 4 [some X, none, some X, some X, none, some O, some O, none, none] O X = (some 1, 0) := by
  rw [minimaxL_succ 3 [some X, none, some X, some X, none, some O, some O, none, none] O X [1, 4, 7, 8] rfl rfl (List.cons_ne_nil _ _)]
  show pickBest [(1, (minimaxL 3 [some X, some O, some X, some X, none, some O, some O, none, none] X O).2), (4, (minimaxL 3 [some X, none, some X, some X, some O, some O, some O, none, none] X O).2), (7, (minimaxL 3 [some X, none, some X, some X, none, some O, some O, some O, none] X O).2), (8, (minimaxL 3 [some X, none, some X, some X, none, some O, some O, none, some O] X O).2)] O = (some 1, 0)
  rw [mmv_0092, mmv_0962, mmv_1090, mmv_1091]
  rfl

theorem mmv_1093 : minimaxL 3 [some X, none, none, some X, some X, some O, some O, some O, none] X O = (some 8, 1) := rfl

theorem mmv_1095 : minimaxL 2 [some X, some X, none, some X, some X, some O, some O, none, some O] O X = (some 2, -1) := rfl

theorem mmv_1096 : minimaxL 2 [some X, none, some X, some X, some X, some O, some O, none, some O] O X = (some 7, -1) := rfl

theorem mmv_1097 : minimaxL 2 [some X, none, none, some X, some X, some O, some O, some X, some O] O X = (some 2, -1) := rfl

theorem mmv_1094 : minimaxL 3 [some X, none, none, some X, some X, some O, some O, none, some O] X O = (some 7, -1) := by
  rw [minimaxL_succ 2 [some X, none, none, some X, some X, some O, some O, none, some O] X O [1, 2, 7] rfl rfl (List.cons_ne_nil _ _)]
  show pickBest [(1, (minimaxL 2 [some X, some X, none, some X, some X, some O, some O, none, some O] O X).2), (2, (minimaxL 2 [some X, none, some X, some X, some X, some O, some O, none, some O] O X).2), (7, (minimaxL 2 [some X, none, none, some X, some X, some O, some O, some X, some O] O X).2)] X = (some 7, -1)
  rw [mmv_1095, mmv_1096, mmv_1097]
  rfl

theorem mmv_1092 : minimaxL 4 [some X, none, none, some X, some X, some O, some O, none, none] O X = (some 8, -1) := by
  rw [minimaxL_succ 3 [some X, none, none, some X, some X, some O, some O, none, none] O X [1, 2, 7, 8] rfl rfl (List.cons_ne_nil _ _)]
  show pickBest [(1, (minimaxL 3 [some X, some O, none, some X, some X, some O, some O, none, none] X O).2), (2, (minimaxL 3 [some X, none, some O, some X, some X, some O, some O, none, none] X O).2), (7, (minimaxL 3 [some X, none, none, some X, some X, some O, some O, some O, none] X O).2), (8, (minimaxL 3 [some X, none, none, some X, some X, some O, some O, none, some O] X O).2)] O = (some 8, -1)
  rw [mmv_0186, mmv_0607, mmv_1093, mmv_1094]
  rfl

theorem mmv_1100 : minimaxL 2 [some X, none, some O, some X, some X, some O, some O, some X, none] O X = (some 8, -1) := rfl

theorem mmv_1101 : minimaxL 2 [some X, none, some O, some X, none, some O, some O, some X, some X] O X = (some 4, -1) := rfl

theorem mmv_1099 : minimaxL 3 [some X, none, some O, some X, none, some O, some O, some X, none] X O = (some 8, -1) := by
  rw [minimaxL_succ 2 [some X, none, some O, some X, none, some O, some O, some X, none] X O [1, 4, 8] rfl rfl (List.cons_ne_nil _ _)]
  show pickBest [(1, (minimaxL 2 [some X, some X, some O, some X, none, some O, some O, some X, none] O X).2), (4, (minimaxL 2 [some X, none, some O, some X, some X, some O, some O, some X, none] O X).2), (8, (minimaxL 2 [some X, none, some O, some X, none, some O, some O, some X, some X] O X).2)] X = (some 8, -1)
  rw [mmv_1084, mmv_1100, mmv_1101]
  rfl

theorem mmv_1103 : minimaxL 2 [some X, some X, none, some X, none, some O, some O, some X, some O] O X = (some 2, -1) := rfl

theorem mmv_1104 : minimaxL 2 [some X, none, some X, some X, none, some O, some O, some X, some O] O X = (some 1, 0) := by
  rw [minimaxL_succ 1 [some X, none, some X, some X, none, some O, some O, some X, some O] O X [1, 4] rfl rfl (List.cons_ne_nil _ _)]
  show pickBest [(1, (minimaxL 1 [some X, some O, some X, some X, none, some O, some O, some X, some O] X O).2), (4, (minimaxL 1 [some X, none, some X, some X, some O, some O, some O, some X, some O] X O).2)] O = (some 1, 0)
  rw [mmv_0098, mmv_1016]
  rfl

theorem mmv_1102 : minimaxL 3 [some X, none, none, some X, none, some O, some O, some X, some O] X O = (some 2, 0) := by
  rw [minimaxL_succ 2 [some X, none, none, some X, none, some O, some O, some X, some O] X O [1, 2, 4] rfl rfl (List.cons_ne_nil _ _)]
  show pickBest [(1, (minimaxL 2 [some X, some X, none, some X, none, some O, some O, some X, some O] O X).2), (2, (minimaxL 2 [some X, none, some X, some X, none, some O, some O, some X, some O] O X).2), (4, (minimaxL 2 [some X, none, none, some X, some X, some O, some O, some X, some O] O X).2)] X = (some 2, 0)
  rw [mmv_1103, mmv_1104, mmv_1097]
  rfl

theorem mmv_1098 : minimaxL 4 [some X, none, none, some X, none, some O, some O, some X, none] O X = (some 2, -1) := by
  rw [minimaxL_succ 3 [some X, none, none, some X, none, some O, some O, some X, none] O X [1, 2, 4, 8] rfl rfl (List.cons_ne_nil _ _)]
  show pickBest [(1, (minimaxL 3 [some X, some O, none, some X, none, some O, some O, some X, none] X O).2), (2, (minimaxL 3 [some X, none, some O, some X, none, some O, some O, some X, none] X O).2), (4, (minimaxL 3 [some X, none, none, some X, some O, some O, some O, some X, none] X O).2), (8, (minimaxL 3 [some X, none, none, some X, none, some O, some O, some X, some O] X O).2)] O = (some 2, -1)
  rw [mmv_0205, mmv_1099, mmv_1013, mmv_1102]
  rfl

theorem mmv_1106 : minimaxL 3 [some X, none, some O, some X, none, some O, some O, none, some X] X O = (some 4, 1) := rfl

theorem mmv_1107 : minimaxL 3 [some X, none, none, some X, none, some O, some O, some O, some X] X O = (some 4, 1) := rfl

theorem mmv_1105 : minimaxL 4 [some X, none, none, some X, none, some O, some O, none, some X] O X = (some 4, 0) := by
  rw [minimaxL_succ 3 [some X, none, none, some X, none, some O, some O, none, some X] O X [1, 2, 4, 7] rfl rfl (List.cons_ne_nil _ _)]
  show pickBest [(1, (minimaxL 3 [some X, some O, none, some X, none, some O, some O, none, some X] X O).2), (2, (minimaxL 3 [some X, none, some O, some X, none, some O, some O, none, some X] X O).2), (4, (minimaxL 3 [some X, none, none, some X, some O, some O, some O, none, some X] X O).2), (7, (minimaxL 3 [some X, none, none, some X, none, some O, some O, some O, some X] X O).2)] O = (some 4, 0)
  rw [mmv_0219, mmv_1106, mmv_1050, mmv_1107]
  rfl

theorem mmv_1080 : minimaxL 5 [some X, none, none, some X, none, some O, some O, none, none] X O = (some 8, 0) := by
  rw [minimaxL_succ 4 [some X, none, none, some X, none, some O, some O, none, none] X O [1, 2, 4, 7, 8] rfl rfl (List.cons_ne_nil _ _)]
  show pickBest [(1, (minimaxL 4 [some X, some X, none, some X, none, some O, some O, none, none] O X).2), (2, (minimaxL 4 [some X, none, some X, some X, none, some O, some O, none, none] O X).2), (4, (minimaxL 4 [some X, none, none, some X, some X, some O, some O, none, none] O X).2), (7, (minimaxL 4 [some X, none, none, some X, none, some O, some O, some X, none] O X).2), (8, (minimaxL 4 [some X, none, none, some X, none, some O, some O, none, some X] O X).2)] X = (some 8, 0)
  rw [mmv_1081, mmv_1089, mmv_1092, mmv_1098, mmv_1105]
  rfl

theorem mmv_1108 : minimaxL 5 [some X, none, none, some X, none, some O, none, some O, none] X O = (some 6, 1) := rfl

theorem mmv_1109 : minimaxL 5 [some X, none, none, some X, none, some O, none, none, some O] X O = (some 6, 1) := rfl

theorem mmv_1079 : minimaxL 6 [some X, none, none, some X, none, some O, none, none, none] O X = (some 6, 0) := by
  rw [minimaxL_succ 5 [some X, none, none, some X, none, some O, none, none, none] O X [1, 2, 4, 6, 7, 8] rfl rfl (List.cons_ne_nil _ _)]
  show pickBest [(1, (minimaxL 5 [some X, some O, none, some X, none, some O, none, none, none] X O).2), (2, (minimaxL 5 [some X, none, some O, some X, none, some O, none, none, none] X O).2), (4, (minimaxL 5 [some X, none, none, some X, some O, some O, none, none, none] X O).2), (6, (minimaxL 5 [some X, none, none, some X, none, some O, some O, none, none] X O).2), (7, (minimaxL 5 [some X, none, none, some X, none, some O, none, some O, none] X O).2), (8, (minimaxL 5 [some X, none, none, some X, none, some O, none, none, some O] X O).2)] O = (some 6, 0)
  rw [mmv_0182, mmv_0604, mmv_0958, mmv_1080, mmv_1108, mmv_1109]
  rfl

theorem mmv_1111 : minimaxL 5 [some X, none, none, none, some X, some O, some O, none, none] X O = (some 8, 1) := rfl

theorem mmv_1112 : minimaxL 5 [some X, none, none, none, some X, some O, none, some O, none] X O = (some 8, 1) := rfl

theorem mmv_1114 : minimaxL 4 [some X, some X, none, none, some X, some O, none, none, some O] O X = (some 2, -1) := rfl

theorem mmv_1116 : minimaxL 3 [some X, none, some X, none, some X, some O, some O, none, some O] X O = (some 1, 1) := rfl

theorem mmv_1117 : minimaxL 3 [some X, none, some X, none, some X, some O, none, some O, some O] X O = (some 1, 1) := rfl

theorem mmv_1115 : minimaxL 4 [some X, none, some X, none, some X, some O, none, none, some O] O X = (some 1, 1) := by
  rw [minimaxL_succ 3 [some X, none, some X, none, some X, some O, none, none, some O] O X [1, 3, 6, 7] rfl rfl (List.cons_ne_nil _ _)]
  show pickBest [(1, (minimaxL 3 [some X, some O, some X, none, some X, some O, none, none, some O] X O).2), (3, (minimaxL 3 [some X, none, some X, some O, some X, some O, none, none, some O] X O).2), (6, (minimaxL 3 [some X, none, some X, none, some X, some O, some O, none, some O] X O).2), (7, (minimaxL 3 [some X, none, some X, none, some X, some O, none, some O, some O] X O).2)] O = (some 1, 1)
  rw [mmv_0107, mmv_0780, mmv_1116, mmv_1117]
  rfl

theorem mmv_1118 : minimaxL 4 [some X, none, none, some X, some X, some O, none, none, some O] O X = (some 2, -1) := rfl

theorem mmv_1119 : minimaxL 4 [some X, none, none, none, some X, some O, some X, none, some O] O X = (some 2, -1) := rfl

theorem mmv_1120 : minimaxL 4 [some X, none, none, none, some X, some O, none, some X, some O] O X = (some 2, -1) := rfl

theorem mmv_1113 : minimaxL 5 [some X, none, none, none, some X, some O, none, none, some O] X O = (some 2, 1) := by
  rw [minimaxL_succ 4 [some X, none, none, none, some X, some O, none, none, some O] X O [1, 2, 3, 6, 7] rfl rfl (List.cons_ne_nil _ _)]
  show pickBest [(1, (minimaxL 4 [some X, some X, none, none, some X, some O, none, none, some O] O X).2), (2, (minimaxL 4 [some X, none, some X, none, some X, some O, none, none, some O] O X).2), (3, (minimaxL 4 [some X, none, none, some X, some X, some O, none, none, some O] O X).2), (6, (minimaxL 4 [some X, none, none, none, some X, some O, some X, none, some O] O X).2), (7, (minimaxL 4 [some X, none, none, none, some X, some O, none, some X, some O] O X).2)] X = (some 2, 1)
  rw [mmv_1114, mmv_1115, mmv_1118, mmv_1119, mmv_1120]
  rfl

theorem mmv_1110 : minimaxL 6 [some X, none, none, none, some X, some O, none, none, none] O X = (some 1, 1) := by
  rw [minimaxL_succ 5 [some X, none, none, none, some X, some O, none, none, none] O X [1, 2, 3, 6, 7, 8] rfl rfl (List.cons_ne_nil _ _)]
  show pickBest [(1, (minimaxL 5 [some X, some O, none, none, some X, some O, none, none, none] X O).2), (2, (minimaxL 5 [some X, none, some O, none, some X, some O, none, none, none] X O).2), (3, (minimaxL 5 [some X, none, none, some O, some X, some O, none, none, none] X O).2), (6, (minimaxL 5 [some X, none, none, none, some X, some O, some O, none, none] X O).2), (7, (minimaxL 5 [some X, none, none, none, some X, some O, none, some O, none] X O).2), (8, (minimaxL 5 [some X, none, none, none, some X, some O, none, none, some O] X O).2)] O = (some 1, 1)
  rw [mmv_0226, mmv_0617, mmv_0771, mmv_1111, mmv_1112, mmv_1113]
  rfl

theorem mmv_1122 : minimaxL 5 [some X, none, none, none, none, some O, some X, some O, none] X O = (some 3, 1) := rfl

theorem mmv_1123 : minimaxL 5 [some X, none, none, none, none, some O, some X, none, some O] X O = (some 3, 1) := rfl

theorem mmv_1121 : minimaxL 6 [some X, none, none, none, none, some O, some X, none, none] O X = (some 1, 1) := by
  rw [minimaxL_succ 5 [some X, none, none, none, none, some O, some X, none, none] O X [1, 2, 3, 4, 7, 8] rfl rfl (List.cons_ne_nil _ _)]
  show pickBest [(1, (minimaxL 5 [some X, some O, none, none, none, some O, some X, none, none] X O).2), (2, (minimaxL 5 [some X, none, some O, none, none, some O, some X, none, none] X O).2), (3, (minimaxL 5 [some X, none, none, some O, none, some O, some X, none, none] X O).2), (4, (minimaxL 5 [some X, none, none, none, some O, some O, some X, none, none] X O).2), (7, (minimaxL 5 [some X, none, none, none, none, some O, some X, some O, none] X O).2), (8, (minimaxL 5 [some X, none, none, none, none, some O, some X, none, some O] X O).2)] O = (some 1, 1)
  rw [mmv_0391, mmv_0712, mmv_0869, mmv_1004, mmv_1122, mmv_1123]
  rfl

theorem mmv_1127 : minimaxL 3 [some X, some X, some O, none, none, some O, some O, some X, none] X O = (some 4, 1) := rfl

theorem mmv_1128 : minimaxL 3 [some X, some X, none, none, some O, some O, some O, some X, none] X O = (some 2, 1) := rfl

theorem mmv_1129 : minimaxL 3 [some X, some X, none, none, none, some O, some O, some X, some O] X O = (some 2, 1) := rfl

theorem mmv_1126 : minimaxL 4 [some X, some X, none, none, none, some O, some O, some X, none] O X = (some 2, 1) := by
  rw [minimaxL_succ 3 [some X, some X, none, none, none, some O, some O, some X, none] O X [2, 3, 4, 8] rfl rfl (List.cons_ne_nil _ _)]
  show pickBest [(2, (minimaxL 3 [some X, some X, some O, none, none, some O, some O, some X, none] X O).2), (3, (minimaxL 3 [some X, some X, none, some O, none, some O, some O, some X, none] X O).2), (4, (minimaxL 3 [some X, some X, none, none, some O, some O, some O, some X, none] X O).2), (8, (minimaxL 3 [some X, some X, none, none, none, some O, some O, some X, some O] X O).2)] O = (some 2, 1)
  rw [mmv_1127, mmv_0920, mmv_1128, mmv_1129]
  rfl

theorem mmv_1131 : minimaxL 3 [some X, none, some X, none, none, some O, some O, some X, some O] X O = (some 1, 1) := rfl

theorem mmv_1130 : minimaxL 4 [some X, none, some X, none, none, some O, some O, some X, none] O X = (some 1, 0) := by
  rw [minimaxL_succ 3 [some X, none, some X, none, none, some O, some O, some X, none] O X [1, 3, 4, 8] rfl rfl (List.cons_ne_nil _ _)]
  show pickBest [(1, (minimaxL 3 [some X, some O, some X, none, none, some O, some O, some X, none] X O).2), (3, (minimaxL 3 [some X, none, some X, some O, none, some O, some O, some X, none] X O).2), (4, (minimaxL 3 [some X, none, some X, none, some O, some O, some O, some X, none] X O).2), (8, (minimaxL 3 [some X, none, some X, none, none, some O, some O, some X, some O] X O).2)] O = (some 1, 0)
  rw [mmv_0113, mmv_0924, mmv_1024, mmv_1131]
  rfl

theorem mmv_1133 : minimaxL 3 [some X, none, none, none, some X, some O, some O, some X, some O] X O = (some 1, 1) := rfl

theorem mmv_1132 : minimaxL 4 [some X, none, none, none, some X, some O, some O, some X, none] O X = (some 1, 1) := by
  rw [minimaxL_succ 3 [some X, none, none, none, some X, some O, some O, some X, none] O X [1, 2, 3, 8] rfl rfl (List.cons_ne_nil _ _)]
  show pickBest [(1, (minimaxL 3 [some X, some O, none, none, some X, some O, some O, some X, none] X O).2), (2, (minimaxL 3 [some X, none, some O, none, some X, some O, some O, some X, none] X O).2), (3, (minimaxL 3 [some X, none, none, some O, some X, some O, some O, some X, none] X O).2), (8, (minimaxL 3 [some X, none, none, none, some X, some O, some O, some X, some O] X O).2)] O = (some 1, 1)
  rw [mmv_0435, mmv_0740, mmv_0915, mmv_1133]
  rfl

theorem mmv_1136 : minimaxL 2 [some X, some X, none, none, some O, some O, some O, some X, some X] O X = (some 3, -1) := rfl

theorem mmv_1137 : minimaxL 2 [some X, none, some X, none, some O, some O, some O, some X, some X] O X = (some 3, -1) := rfl

theorem mmv_1135 : minimaxL 3 [some X, none, none, none, some O, some O, some O, some X, some X] X O = (some 3, -1) := by
  rw [minimaxL_succ 2 [some X, none, none, none, some O, some O, some O, some X, some X] X O [1, 2, 3] rfl rfl (List.cons_ne_nil _ _)]
  show pickBest [(1, (minimaxL 2 [some X, some X, none, none, some O, some O, some O, some X, some X] O X).2), (2, (minimaxL 2 [some X, none, some X, none, some O, some O, some O, some X, some X] O X).2), (3, (minimaxL 2 [some X, none, none, some X, some O, some O, some O, some X, some X] O X).2)] X = (some 3, -1)
  rw [mmv_1136, mmv_1137, mmv_1017]
  rfl

theorem mmv_1134 : minimaxL 4 [some X, none, none, none, none, some O, some O, some X, some X] O X = (some 4, -1) := by
  rw [minimaxL_succ 3 [some X, none, none, none, none, some O, some O, some X, some X] O X [1, 2, 3, 4] rfl rfl (List.cons_ne_nil _ _)]
  show pickBest [(1, (minimaxL 3 [some X, some O, none, none, none, some O, some O, some X, some X] X O).2), (2, (minimaxL 3 [some X, none, some O, none, none, some O, some O, some X, some X] X O).2), (3, (minimaxL 3 [some X, none, none, some O, none, some O, some O, some X, some X] X O).2), (4, (minimaxL 3 [some X, none, none, none, some O, some O, some O, some X, some X] X O).2)] O = (some 4, -1)
  rw [mmv_0439, mmv_0737, mmv_0931, mmv_1135]
  rfl

theorem mmv_1125 : minimaxL 5 [some X, none, none, none, none, some O, some O, some X, none] X O = (some 4, 1) := by
  rw [minimaxL_succ 4 [some X, none, none, none, none, some O, some O, some X, none] X O [1, 2, 3, 4, 8] rfl rfl (List.cons_ne_nil _ _)]
  show pickBest [(1, (minimaxL 4 [some X, some X, none, none, none, some O, some O, some X, none] O X).2), (2, (minimaxL 4 [some X, none, some X, none, none, some O, some O, some X, none] O X).2), (3, (minimaxL 4 [some X, none, none, some X, none, some O, some O, some X, none] O X).2), (4, (minimaxL 4 [some X, none, none, none, some X, some O, some O, some X, none] O X).2), (8, (minimaxL 4 [some X, none, none, none, none, some O, some O, some X, some X] O X).2)] X = (some 4, 1)
  rw [mmv_1126, mmv_1130, mmv_1098, mmv_1132, mmv_1134]
  rfl

theorem mmv_1139 : minimaxL 4 [some X, some X, none, none, none, some O, none, some X, some O] O X = (some 2, -1) := rfl

theorem mmv_1140 : minimaxL 4 [some X, none, some X, none, none, some O, none, some X, some O] O X = (some 1, 1) := by
  rw [minimaxL_succ 3 [some X, none, some X, none, none, some O, none, some X, some O] O X [1, 3, 4, 6] rfl rfl (List.cons_ne_nil _ _)]
  show pickBest [(1, (minimaxL 3 [some X, some O, some X, none, none, some O, none, some X, some O] X O).2), (3, (minimaxL 3 [some X, none, some X, some O, none, some O, none, some X, some O] X O).2), (4, (minimaxL 3 [some X, none, some X, none, some O, some O, none, some X, some O] X O).2), (6, (minimaxL 3 [some X, none, some X, none, none, some O, some O, some X, some O] X O).2)] O = (some 1, 1)
  rw [mmv_0117, mmv_0938, mmv_1035, mmv_1131]
  rfl

theorem mmv_1141 : minimaxL 4 [some X, none, none, some X, none, some O, none, some X, some O] O X = (some 2, -1) := rfl

theorem mmv_1142 : minimaxL 4 [some X, none, none, none, none, some O, some X, some X, some O] O X = (some 2, -1) := rfl

theorem mmv_1138 : minimaxL 5 [some X, none, none, none, none, some O, none, some X, some O] X O = (some 2, 1) := by
  rw [minimaxL_succ 4 [some X, none, none, none, none, some O, none, some X, some O] X O [1, 2, 3, 4, 6] rfl rfl (List.cons_ne_nil _ _)]
  show pickBest [(1, (minimaxL 4 [some X, some X, none, none, none, some O, none, some X, some O] O X).2), (2, (minimaxL 4 [some X, none, some X, none, none, some O, none, some X, some O] O X).2), (3, (minimaxL 4 [some X, none, none, some X, none, some O, none, some X, some O] O X).2), (4, (minimaxL 4 [some X, none, none, none, some X, some O, none, some X, some O] O X).2), (6, (minimaxL 4 [some X, none, none, none, none, some O, some X, some X, some O] O X).2)] X = (some 2, 1)
  rw [mmv_1139, mmv_1140, mmv_1141, mmv_1120, mmv_1142]
  rfl

theorem mmv_1124 : minimaxL 6 [some X, none, none, none, none, some O, none, some X, none] O X = (some 4, 0) := by
  rw [minimaxL_succ 5 [some X, none, none, none, none, some O, none, some X, none] O X [1, 2, 3, 4, 6, 8] rfl rfl (List.cons_ne_nil _ _)]
  show pickBest [(1, (minimaxL 5 [some X, some O, none, none, none, some O, none, some X, none] X O).2), (2, (minimaxL 5 [some X, none, some O, none, none, some O, none, some X, none] X O).2), (3, (minimaxL 5 [some X, none, none, some O, none, some O, none, some X, none] X O).2), (4, (minimaxL 5 [some X, none, none, none, some O, some O, none, some X, none] X O).2), (6, (minimaxL 5 [some X, none, none, none, none, some O, some O, some X, none] X O).2), (8, (minimaxL 5 [some X, none, none, none, none, some O, none, some X, some O] X O).2)] O = (some 4, 0)
  rw [mmv_0431, mmv_0731, mmv_0911, mmv_1008, mmv_1125, mmv_1138]
  rfl

theorem mmv_1144 : minimaxL 5 [some X, none, none, none, none, some O, some O, none, some X] X O = (some 4, 1) := rfl

theorem mmv_1145 : minimaxL 5 [some X, none, none, none, none, some O, none, some O, some X] X O = (some 4, 1) := rfl

theorem mmv_1143 : minimaxL 6 [some X, none, none, none, none, some O, none, none, some X] O X = (some 4, 0) := by
  rw [minimaxL_succ 5 [some X, none, none, none, none, some O, none, none, some X] O X [1, 2, 3, 4, 6, 7] rfl rfl (List.cons_ne_nil _ _)]
  show pickBest [(1, (minimaxL 5 [some X, some O, none, none, none, some O, none, none, some X] X O).2), (2, (minimaxL 5 [some X, none, some O, none, none, some O, none, none, some X] X O).2), (3, (minimaxL 5 [some X, none, none, some O, none, some O, none, none, some X] X O).2), (4, (minimaxL 5 [some X, none, none, none, some O, some O, none, none, some X] X O).2), (6, (minimaxL 5 [some X, none, none, none, none, some O, some O, none, some X] X O).2), (7, (minimaxL 5 [some X, none, none, none, none, some O, none, some O, some X] X O).2)] O = (some 4, 0)
  rw [mmv_0452, mmv_0754, mmv_0943, mmv_1044, mmv_1144, mmv_1145]
  rfl

theorem mmv_1070 : minimaxL 7 [some X, none, none, none, none, some O, none, none, none] X O = (some 6, 1) := by
  rw [minimaxL_succ 6 [some X, none, none, none, none, some O, none, none, none] X O [1, 2, 3, 4, 6, 7, 8] rfl rfl (List.cons_ne_nil _ _)]
  show pickBest [(1, (minimaxL 6 [some X, some X, none, none, none, some O, none, none, none] O X).2), (2, (minimaxL 6 [some X, none, some X, none, none, some O, none, none, none] O X).2), (3, (minimaxL 6 [some X, none, none, some X, none, some O, none, none, none] O X).2), (4, (minimaxL 6 [some X, none, none, none, some X, some O, none, none, none] O X).2), (6, (minimaxL 6 [some X, none, none, none, none, some O, some X, none, none] O X).2), (7, (minimaxL 6 [some X, none, none, none, none, some O, none, some X, none] O X).2), (8, (minimaxL 6 [some X, none, none, none, none, some O, none, none, some X] O X).2)] X = (some 6, 1)
  rw [mmv_1071, mmv_1075, mmv_1079, mmv_1110, mmv_1121, mmv_1124, mmv_1143]
  rfl

theorem mmv_1148 : minimaxL 5 [some X, some X, none, none, none, none, some O, some O, none] X O = (some 2, 1) := rfl

theorem mmv_1149 : minimaxL 5 [some X, some X, none, none, none, none, some O, none, some O] X O = (some 2, 1) := rfl

theorem mmv_1147 : minimaxL 6 [some X, some X, none, none, none, none, some O, none, none] O X = (some 2, 1) := by
  rw [minimaxL_succ 5 [some X, some X, none, none, none, none, some O, none, none] O X [2, 3, 4, 5, 7, 8] rfl rfl (List.cons_ne_nil _ _)]
  show pickBest [(2, (minimaxL 5 [some X, some X, some O, none, none, none, some O, none, none] X O).2), (3, (minimaxL 5 [some X, some X, none, some O, none, none, some O, none, none] X O).2), (4, (minimaxL 5 [some X, some X, none, none, some O, none, some O, none, none] X O).2), (5, (minimaxL 5 [some X, some X, none, none, none, some O, some O, none, none] X O).2), (7, (minimaxL 5 [some X, some X, none, none, none, none, some O, some O, none] X O).2), (8, (minimaxL 5 [some X, some X, none, none, none, none, some O, none, some O] X O).2)] O = (some 2, 1)
  rw [mmv_0543, mmv_0761, mmv_0949, mmv_1072, mmv_1148, mmv_1149]
  rfl

theorem mmv_1151 : minimaxL 5 [some X, none, some X, none, none, none, some O, some O, none] X O = (some 1, 1) := rfl

theorem mmv_1152 : minimaxL 5 [some X, none, some X, none, none, none, some O, none, some O] X O = (some 1, 1) := rfl

theorem mmv_1150 : minimaxL 6 [some X, none, some X, none, none, none, some O, none, none] O X = (some 1, 1) := by
  rw [minimaxL_succ 5 [some X, none, some X, none, none, none, some O, none, none] O X [1, 3, 4, 5, 7, 8] rfl rfl (List.cons_ne_nil _ _)]
  show pickBest [(1, (minimaxL 5 [some X, some O, some X, none, none, none, some O, none, none] X O).2), (3, (minimaxL 5 [some X, none, some X, some O, none, none, some O, none, none] X O).2), (4, (minimaxL 5 [some X, none, some X, none, some O, none, some O, none, none] X O).2), (5, (minimaxL 5 [some X, none, some X, none, none, some O, some O, none, none] X O).2), (7, (minimaxL 5 [some X, none, some X, none, none, none, some O, some O, none] X O).2), (8, (minimaxL 5 [some X, none, some X, none, none, none, some O, none, some O] X O).2)] O = (some 1, 1)
  rw [mmv_0127, mmv_0767, mmv_0954, mmv_1076, mmv_1151, mmv_1152]
  rfl

theorem mmv_1155 : minimaxL 4 [some X, some X, none, some X, none, none, some O, some O, none] O X = (some 8, -1) := rfl

theorem mmv_1156 : minimaxL 4 [some X, none, some X, some X, none, none, some O, some O, none] O X = (some 8, -1) := rfl

theorem mmv_1157 : minimaxL 4 [some X, none, none, some X, some X, none, some O, some O, none] O X = (some 8, -1) := rfl

theorem mmv_1158 : minimaxL 4 [some X, none, none, some X, none, some X, some O, some O, none] O X = (some 8, -1) := rfl

theorem mmv_1160 : minimaxL 3 [some X, none, some O, some X, none, none, some O, some O, some X] X O = (some 4, 1) := rfl

theorem mmv_1162 : minimaxL 2 [some X, some X, none, some X, some O, none, some O, some O, some X] O X = (some 2, -1) := rfl

theorem mmv_1163 : minimaxL 2 [some X, none, some X, some X, some O, none, some O, some O, some X] O X = (some 1, -1) := rfl

theorem mmv_1164 : minimaxL 2 [some X, none, none, some X, some O, some X, some O, some O, some X] O X = (some 2, -1) := rfl

theorem mmv_1161 : minimaxL 3 [some X, none, none, some X, some O, none, some O, some O, some X] X O = (some 5, -1) := by
  rw [minimaxL_succ 2 [some X, none, none, some X, some O, none, some O, some O, some X] X O [1, 2, 5] rfl rfl (List.cons_ne_nil _ _)]
  show pickBest [(1, (minimaxL 2 [some X, some X, none, some X, some O, none, some O, some O, some X] O X).2), (2, (minimaxL 2 [some X, none, some X, some X, some O, none, some O, some O, some X] O X).2), (5, (minimaxL 2 [some X, none, none, some X, some O, some X, some O, some O, some X] O X).2)] X = (some 5, -1)
  rw [mmv_1162, mmv_1163, mmv_1164]
  rfl

theorem mmv_1159 : minimaxL 4 [some X, none, none, some X, none, none, some O, some O, some X] O X = (some 4, -1) := by
  rw [minimaxL_succ 3 [some X, none, none, some X, none, none, some O, some O, some X] O X [1, 2, 4, 5] rfl rfl (List.cons_ne_nil _ _)]
  show pickBest [(1, (minimaxL 3 [some X, some O, none, some X, none, none, some O, some O, some X] X O).2), (2, (minimaxL 3 [some X, none, some O, some X, none, none, some O, some O, some X] X O).2), (4, (minimaxL 3 [some X, none, none, some X, some O, none, some O, some O, some X] X O).2), (5, (minimaxL 3 [some X, none, none, some X, none, some O, some O, some O, some X] X O).2)] O = (some 4, -1)
  rw [mmv_0220, mmv_1160, mmv_1161, mmv_1107]
  rfl

theorem mmv_1154 : minimaxL 5 [some X, none, none, some X, none, none, some O, some O, none] X O = (some 8, -1) := by
  rw [minimaxL_succ 4 [some X, none, none, some X, none, none, some O, some O, none] X O [1, 2, 4, 5, 8] rfl rfl (List.cons_ne_nil _ _)]
  show pickBest [(1, (minimaxL 4 [some X, some X, none, some X, none, none, some O, some O, none] O X).2), (2, (minimaxL 4 [some X, none, some X, some X, none, none, some O, some O, none] O X).2), (4, (minimaxL 4 [some X, none, none, some X, some X, none, some O, some O, none] O X).2), (5, (minimaxL 4 [some X, none, none, some X, none, some X, some O, some O, none] O X).2), (8, (minimaxL 4 [some X, none, none, some X, none, none, some O, some O, some X] O X).2)] X = (some 8, -1)
  rw [mmv_1155, mmv_1156, mmv_1157, mmv_1158, mmv_1159]
  rfl

theorem mmv_1166 : minimaxL 4 [some X, some X, none, some X, none, none, some O, none, some O] O X = (some 7, -1) := rfl

theorem mmv_1167 : minimaxL 4 [some X, none, some X, some X, none, none, some O, none, some O] O X = (some 7, -1) := rfl

theorem mmv_1168 : minimaxL 4 [some X, none, none, some X, some X, none, some O, none, some O] O X = (some 7, -1) := rfl

theorem mmv_1169 : minimaxL 4 [some X, none, none, some X, none, some X, some O, none, some O] O X = (some 7, -1) := rfl

theorem mmv_1172 : minimaxL 2 [some X, some X, some O, some X, none, none, some O, some X, some O] O X = (some 4, -1) := rfl

theorem mmv_1173 : minimaxL 2 [some X, none, some O, some X, some X, none, some O, some X, some O] O X = (some 5, -1) := rfl

theorem mmv_1171 : minimaxL 3 [some X, none, some O, some X, none, none, some O, some X, some O] X O = (some 5, -1) := by
  rw [minimaxL_succ 2 [some X, none, some O, some X, none, none, some O, some X, some O] X O [1, 4, 5] rfl rfl (List.cons_ne_nil _ _)]
  show pickBest [(1, (minimaxL 2 [some X, some X, some O, some X, none, none, some O, some X, some O] O X).2), (4, (minimaxL 2 [some X, none, some O, some X, some X, none, some O, some X, some O] O X).2), (5, (minimaxL 2 [some X, none, some O, some X, none, some X, some O, some X, some O] O X).2)] X = (some 5, -1)
  rw [mmv_1172, mmv_1173, mmv_0694]
  rfl

theorem mmv_1170 : minimaxL 4 [some X, none, none, some X, none, none, some O, some X, some O] O X = (some 2, -1) := by
  rw [minimaxL_succ 3 [some X, none, none, some X, none, none, some O, some X, some O] O X [1, 2, 4, 5] rfl rfl (List.cons_ne_nil _ _)]
  show pickBest [(1, (minimaxL 3 [some X, some O, none, some X, none, none, some O, some X, some O] X O).2), (2, (minimaxL 3 [some X, none, some O, some X, none, none, some O, some X, some O] X O).2), (4, (minimaxL 3 [some X, none, none, some X, some O, none, some O, some X, some O] X O).2), (5, (minimaxL 3 [some X, none, none, some X, none, some O, some O, some X, some O] X O).2)] O = (some 2, -1)
  rw [mmv_0211, mmv_1171, mmv_1038, mmv_1102]
  rfl

theorem mmv_1165 : minimaxL 5 [some X, none, none, some X, none, none, some O, none, some O] X O = (some 7, -1) := by
  rw [minimaxL_succ 4 [some X, none, none, some X, none, none, some O, none, some O] X O [1, 2, 4, 5, 7] rfl rfl (List.cons_ne_nil _ _)]
  show pickBest [(1, (minimaxL 4 [some X, some X, none, some X, none, none, some O, none, some O] O X).2), (2, (minimaxL 4 [some X, none, some X, some X, none, none, some O, none, some O] O X).2), (4, (minimaxL 4 [some X, none, none, some X, some X, none, some O, none, some O] O X).2), (5, (minimaxL 4 [some X, none, none, some X, none, some X, some O, none, some O] O X).2), (7, (minimaxL 4 [some X, none, none, some X, none, none, some O, some X, some O] O X).2)] X = (some 7, -1)
  rw [mmv_1166, mmv_1167, mmv_1168, mmv_1169, mmv_1170]
  rfl

theorem mmv_1153 : minimaxL 6 [some X, none, none, some X, none, none, some O, none, none] O X = (some 7, -1) := by
  rw [minimaxL_succ 5 [some X, none, none, some X, none, none, some O, none, none] O X [1, 2, 4, 5, 7, 8] rfl rfl (List.cons_ne_nil _ _)]
  show pickBest [(1, (minimaxL 5 [some X, some O, none, some X, none, none, some O, none, none] X O).2), (2, (minimaxL 5 [some X, none, some O, some X, none, none, some O, none, none] X O).2), (4, (minimaxL 5 [some X, none, none, some X, some O, none, some O, none, none] X O).2), (5, (minimaxL 5 [some X, none, none, some X, none, some O, some O, none, none] X O).2), (7, (minimaxL 5 [some X, none, none, some X, none, none, some O, some O, none] X O).2), (8, (minimaxL 5 [some X, none, none, some X, none, none, some O, none, some O] X O).2)] O = (some 7, -1)
  rw [mmv_0183, mmv_0605, mmv_0959, mmv_1080, mmv_1154, mmv_1165]
  rfl

theorem mmv_1175 : minimaxL 5 [some X, none, none, none, some X, none, some O, some O, none] X O = (some 8, 1) := rfl

theorem mmv_1177 : minimaxL 4 [some X, some X, none, none, some X, none, some O, none, some O] O X = (some 7, -1) := rfl

theorem mmv_1178 : minimaxL 4 [some X, none, some X, none, some X, none, some O, none, some O] O X = (some 7, -1) := rfl

theorem mmv_1179 : minimaxL 4 [some X, none, none, none, some X, some X, some O, none, some O] O X = (some 7, -1) := rfl

theorem mmv_1180 : minimaxL 4 [some X, none, none, none, some X, none, some O, some X, some O] O X = (some 1, 0) := by
  rw [minimaxL_succ 3 [some X, none, none, none, some X, none, some O, some X, some O] O X [1, 2, 3, 5] rfl rfl (List.cons_ne_nil _ _)]
  show pickBest [(1, (minimaxL 3 [some X, some O, none, none, some X, none, some O, some X, some O] X O).2), (2, (minimaxL 3 [some X, none, some O, none, some X, none, some O, some X, some O] X O).2), (3, (minimaxL 3 [some X, none, none, some O, some X, none, some O, some X, some O] X O).2), (5, (minimaxL 3 [some X, none, none, none, some X, some O, some O, some X, some O] X O).2)] O = (some 1, 0)
  rw [mmv_0264, mmv_0741, mmv_0797, mmv_1133]
  rfl

theorem mmv_1176 : minimaxL 5 [some X, none, none, none, some X, none, some O, none, some O] X O = (some 7, 0) := by
  rw [minimaxL_succ 4 [some X, none, none, none, some X, none, some O, none, some O] X O [1, 2, 3, 5, 7] rfl rfl (List.cons_ne_nil _ _)]
  show pickBest [(1, (minimaxL 4 [some X, some X, none, none, some X, none, some O, none, some O] O X).2), (2, (minimaxL 4 [some X, none, some X, none, some X, none, some O, none, some O] O X).2), (3, (minimaxL 4 [some X, none, none, some X, some X, none, some O, none, some O] O X).2), (5, (minimaxL 4 [some X, none, none, none, some X, some X, some O, none, some O] O X).2), (7, (minimaxL 4 [some X, none, none, none, some X, none, some O, some X, some O] O X).2)] X = (some 7, 0)
  rw [mmv_1177, mmv_1178, mmv_1168, mmv_1179, mmv_1180]
  rfl

theorem mmv_1174 : minimaxL 6 [some X, none, none, none, some X, none, some O, none, none] O X = (some 8, 0) := by
  rw [minimaxL_succ 5 [some X, none, none, none, some X, none, some O, none, none] O X [1, 2, 3, 5, 7, 8] rfl rfl (List.cons_ne_nil _ _)]
  show pickBest [(1, (minimaxL 5 [some X, some O, none, none, some X, none, some O, none, none] X O).2), (2, (minimaxL 5 [some X, none, some O, none, some X, none, some O, none, none] X O).2), (3, (minimaxL 5 [some X, none, none, some O, some X, none, some O, none, none] X O).2), (5, (minimaxL 5 [some X, none, none, none, some X, some O, some O, none, none] X O).2), (7, (minimaxL 5 [some X, none, none, none, some X, none, some O, some O, none] X O).2), (8, (minimaxL 5 [some X, none, none, none, some X, none, some O, none, some O] X O).2)] O = (some 8, 0)
  rw [mmv_0227, mmv_0618, mmv_0772, mmv_1111, mmv_1175, mmv_1176]
  rfl

theorem mmv_1183 : minimaxL 4 [some X, some X, none, none, none, some X, some O, some O, none] O X = (some 8, -1) := rfl

theorem mmv_1184 : minimaxL 4 [some X, none, some X, none, none, some X, some O, some O, none] O X = (some 8, -1) := rfl

theorem mmv_1185 : minimaxL 4 [some X, none, none, none, some X, some X, some O, some O, none] O X = (some 8, -1) := rfl

theorem mmv_1187 : minimaxL 3 [some X, none, none, none, some O, some X, some O, some O, some X] X O = (some 2, 1) := rfl

theorem mmv_1186 : minimaxL 4 [some X, none, none, none, none, some X, some O, some O, some X] O X = (some 1, 1) := by
  rw [minimaxL_succ 3 [some X, none, none, none, none, some X, some O, some O, some X] O X [1, 2, 3, 4] rfl rfl (List.cons_ne_nil _ _)]
  show pickBest [(1, (minimaxL 3 [some X, some O, none, none, none, some X, some O, some O, some X] X O).2), (2, (minimaxL 3 [some X, none, some O, none, none, some X, some O, some O, some X] X O).2), (3, (minimaxL 3 [some X, none, none, some O, none, some X, some O, some O, some X] X O).2), (4, (minimaxL 3 [some X, none, none, none, some O, some X, some O, some O, some X] X O).2)] O = (some 1, 1)
  rw [mmv_0359, mmv_0683, mmv_0846, mmv_1187]
  rfl

theorem mmv_1182 : minimaxL 5 [some X, none, none, none, none, some X, some O, some O, none] X O = (some 8, 1) := by
  rw [minimaxL_succ 4 [some X, none, none, none, none, some X, some O, some O, none] X O [1, 2, 3, 4, 8] rfl rfl (List.cons_ne_nil _ _)]
  show pickBest [(1, (minimaxL 4 [some X, some X, none, none, none, some X, some O, some O, none] O X).2), (2, (minimaxL 4 [some X, none, some X, none, none, some X, some O, some O, none] O X).2), (3, (minimaxL 4 [some X, none, none, some X, none, some X, some O, some O, none] O X).2), (4, (minimaxL 4 [some X, none, none, none, some X, some X, some O, some O, none] O X).2), (8, (minimaxL 4 [some X, none, none, none, none, some X, some O, some O, some X] O X).2)] X = (some 8, 1)
  rw [mmv_1183, mmv_1184, mmv_1158, mmv_1185, mmv_1186]
  rfl

theorem mmv_1189 : minimaxL 4 [some X, some X, none, none, none, some X, some O, none, some O] O X = (some 7, -1) := rfl

theorem mmv_1190 : minimaxL 4 [some X, none, some X, none, none, some X, some O, none, some O] O X = (some 7, -1) := rfl

theorem mmv_1191 : minimaxL 4 [some X, none, none, none, none, some X, some O, some X, some O] O X = (some 1, 0) := by
  rw [minimaxL_succ 3 [some X, none, none, none, none, some X, some O, some X, some O] O X [1, 2, 3, 4] rfl rfl (List.cons_ne_nil _ _)]
  show pickBest [(1, (minimaxL 3 [some X, some O, none, none, none, some X, some O, some X, some O] X O).2), (2, (minimaxL 3 [some X, none, some O, none, none, some X, some O, some X, some O] X O).2), (3, (minimaxL 3 [some X, none, none, some O, none, some X, some O, some X, some O] X O).2), (4, (minimaxL 3 [some X, none, none, none, some O, some X, some O, some X, some O] X O).2)] O = (some 1, 0)
  rw [mmv_0356, mmv_0693, mmv_0842, mmv_1000]
  rfl

theorem mmv_1188 : minimaxL 5 [some X, none, none, none, none, some X, some O, none, some O] X O = (some 7, 0) := by
  rw [minimaxL_succ 4 [some X, none, none, none, none, some X, some O, none, some O] X O [1, 2, 3, 4, 7] rfl rfl (List.cons_ne_nil _ _)]
  show pickBest [(1, (minimaxL 4 [some X, some X, none, none, none, some X, some O, none, some O] O X).2), (2, (minimaxL 4 [some X, none, some X, none, none, some X, some O, none, some O] O X).2), (3, (minimaxL 4 [some X, none, none, some X, none, some X, some O, none, some O] O X).2), (4, (minimaxL 4 [some X, none, none, none, some X, some X, some O, none, some O] O X).2), (7, (minimaxL 4 [some X, none, none, none, none, some X, some O, some X, some O] O X).2)] X = (some 7, 0)
  rw [mmv_1189, mmv_1190, mmv_1169, mmv_1179, mmv_1191]
  rfl

theorem mmv_1181 : minimaxL 6 [some X, none, none, none, none, some X, some O, none, none] O X = (some 8, 0) := by
  rw [minimaxL_succ 5 [some X, none, none, none, none, some X, some O, none, none] O X [1, 2, 3, 4, 7, 8] rfl rfl (List.cons_ne_nil _ _)]
  show pickBest [(1, (minimaxL 5 [some X, some O, none, none, none, some X, some O, none, none] X O).2), (2, (minimaxL 5 [some X, none, some O, none, none, some X, some O, none, none] X O).2), (3, (minimaxL 5 [some X, none, none, some O, none, some X, some O, none, none] X O).2), (4, (minimaxL 5 [some X, none, none, none, some O, some X, some O, none, none] X O).2), (7, (minimaxL 5 [some X, none, none, none, none, some X, some O, some O, none] X O).2), (8, (minimaxL 5 [some X, none, none, none, none, some X, some O, none, some O] X O).2)] O = (some 8, 0)
  rw [mmv_0352, mmv_0666, mmv_0832, mmv_0971, mmv_1182, mmv_1188]
  rfl

theorem mmv_1195 : minimaxL 3 [some X, some X, some O, none, none, none, some O, some X, some O] X O = (some 4, 1) := rfl

theorem mmv_1194 : minimaxL 4 [some X, some X, none, none, none, none, some O, some X, some O] O X = (some 2, 1) := by
  rw [minimaxL_succ 3 [some X, some X, none, none, none, none, some O, some X, some O] O X [2, 3, 4, 5] rfl rfl (List.cons_ne_nil _ _)]
  show pickBest [(2, (minimaxL 3 [some X, some X, some O, none, none, none, some O, some X, some O] X O).2), (3, (minimaxL 3 [some X, some X, none, some O, none, none, some O, some X, some O] X O).2), (4, (minimaxL 3 [some X, some X, none, none, some O, none, some O, some X, some O] X O).2), (5, (minimaxL 3 [some X, some X, none, none, none, some O, some O, some X, some O] X O).2)] O = (some 2, 1)
  rw [mmv_1195, mmv_0921, mmv_1033, mmv_1129]
  rfl

theorem mmv_1196 : minimaxL 4 [some X, none, some X, none, none, none, some O, some X, some O] O X = (some 1, 0) := by
  rw [minimaxL_succ 3 [some X, none, some X, none, none, none, some O, some X, some O] O X [1, 3, 4, 5] rfl rfl (List.cons_ne_nil _ _)]
  show pickBest [(1, (minimaxL 3 [some X, some O, some X, none, none, none, some O, some X, some O] X O).2), (3, (minimaxL 3 [some X, none, some X, some O, none, none, some O, some X, some O] X O).2), (4, (minimaxL 3 [some X, none, some X, none, some O, none, some O, some X, some O] X O).2), (5, (minimaxL 3 [some X, none, some X, none, none, some O, some O, some X, some O] X O).2)] O = (some 1, 0)
  rw [mmv_0151, mmv_0925, mmv_1025, mmv_1131]
  rfl

theorem mmv_1193 : minimaxL 5 [some X, none, none, none, none, none, some O, some X, some O] X O = (some 1, 1) := by
  rw [minimaxL_succ 4 [some X, none, none, none, none, none, some O, some X, some O] X O [1, 2, 3, 4, 5] rfl rfl (List.cons_ne_nil _ _)]
  show pickBest [(1, (minimaxL 4 [some X, some X, none, none, none, none, some O, some X, some O] O X).2), (2, (minimaxL 4 [some X, none, some X, none, none, none, some O, some X, some O] O X).2), (3, (minimaxL 4 [some X, none, none, some X, none, none, some O, some X, some O] O X).2), (4, (minimaxL 4 [some X, none, none, none, some X, none, some O, some X, some O] O X).2), (5, (minimaxL 4 [some X, none, none, none, none, some X, some O, some X, some O] O X).2)] X = (some 1, 1)
  rw [mmv_1194, mmv_1196, mmv_1170, mmv_1180, mmv_1191]
  rfl

theorem mmv_1192 : minimaxL 6 [some X, none, none, none, none, none, some O, some X, none] O X = (some 1, 0) := by
  rw [minimaxL_succ 5 [some X, none, none, none, none, none, some O, some X, none] O X [1, 2, 3, 4, 5, 8] rfl rfl (List.cons_ne_nil _ _)]
  show pickBest [(1, (minimaxL 5 [some X, some O, none, none, none, none, some O, some X, none] X O).2), (2, (minimaxL 5 [some X, none, some O, none, none, none, some O, some X, none] X O).2), (3, (minimaxL 5 [some X, none, none, some O, none, none, some O, some X, none] X O).2), (4, (minimaxL 5 [some X, none, none, none, some O, none, some O, some X, none] X O).2), (5, (minimaxL 5 [some X, none, none, none, none, some O, some O, some X, none] X O).2), (8, (minimaxL 5 [some X, none, none, none, none, none, some O, some X, some O] X O).2)] O = (some 1, 0)
  rw [mmv_0440, mmv_0738, mmv_0917, mmv_1021, mmv_1125, mmv_1193]
  rfl

theorem mmv_1198 : minimaxL 5 [some X, none, none, none, none, none, some O, some O, some X] X O = (some 4, 1) := rfl

theorem mmv_1197 : minimaxL 6 [some X, none, none, none, none, none, some O, none, some X] O X = (some 1, 1) := by
  rw [minimaxL_succ 5 [some X, none, none, none, none, none, some O, none, some X] O X [1, 2, 3, 4, 5, 7] rfl rfl (List.cons_ne_nil _ _)]
  show pickBest [(1, (minimaxL 5 [some X, some O, none, none, none, none, some O, none, some X] X O).2), (2, (minimaxL 5 [some X, none, some O, none, none, none, some O, none, some X] X O).2), (3, (minimaxL 5 [some X, none, none, some O, none, none, some O, none, some X] X O).2), (4, (minimaxL 5 [some X, none, none, none, some O, none, some O, none, some X] X O).2), (5, (minimaxL 5 [some X, none, none, none, none, some O, some O, none, some X] X O).2), (7, (minimaxL 5 [some X, none, none, none, none, none, some O, some O, some X] X O).2)] O = (some 1, 1)
  rw [mmv_0453, mmv_0755, mmv_0944, mmv_1056, mmv_1144, mmv_1198]
  rfl

theorem mmv_1146 : minimaxL 7 [some X, none, none, none, none, none, some O, none, none] X O = (some 8, 1) := by
  rw [minimaxL_succ 6 [some X, none, none, none, none, none, some O, none, none] X O [1, 2, 3, 4, 5, 7, 8] rfl rfl (List.cons_ne_nil _ _)]
  show pickBest [(1, (minimaxL 6 [some X, some X, none, none, none, none, some O, none, none] O X).2), (2, (minimaxL 6 [some X, none, some X, none, none, none, some O, none, none] O X).2), (3, (minimaxL 6 [some X, none, none, some X, none, none, some O, none, none] O X).2), (4, (minimaxL 6 [some X, none, none, none, some X, none, some O, none, none] O X).2), (5, (minimaxL 6 [some X, none, none, none, none, some X, some O, none, none] O X).2), (7, (minimaxL 6 [some X, none, none, none, none, none, some O, some X, none] O X).2), (8, (minimaxL 6 [some X, none, none, none, none, none, some O, none, some X] O X).2)] X = (some 8, 1)
  rw [mmv_1147, mmv_1150, mmv_1153, mmv_1174, mmv_1181, mmv_1192, mmv_1197]
  rfl

theorem mmv_1201 : minimaxL 5 [some X, some X, none, none, none, none, none, some O, some O] X O = (some 2, 1) := rfl

theorem mmv_1200 : minimaxL 6 [some X, some X, none, none, none, none, none, some O, none] O X = (some 2, 0) := by
  rw [minimaxL_succ 5 [some X, some X, none, none, none, none, none, some O, none] O X [2, 3, 4, 5, 6, 8] rfl rfl (List.cons_ne_nil _ _)]
  show pickBest [(2, (minimaxL 5 [some X, some X, some O, none, none, none, none, some O, none] X O).2), (3, (minimaxL 5 [some X, some X, none, some O, none, none, none, some O, none] X O).2), (4, (minimaxL 5 [some X, some X, none, none, some O, none, none, some O, none] X O).2), (5, (minimaxL 5 [some X, some X, none, none, none, some O, none, some O, none] X O).2), (6, (minimaxL 5 [some X, some X, none, none, none, none, some O, some O, none] X O).2), (8, (minimaxL 5 [some X, some X, none, none, none, none, none, some O, some O] X O).2)] O = (some 2, 0)
  rw [mmv_0552, mmv_0762, mmv_0950, mmv_1073, mmv_1148, mmv_1201]
  rfl

theorem mmv_1203 : minimaxL 5 [some X, none, some X, none, none, none, none, some O, some O] X O = (some 1, 1) := rfl

theorem mmv_1202 : minimaxL 6 [some X, none, some X, none, none, none, none, some O, none] O X = (some 1, 1) := by
  rw [minimaxL_succ 5 [some X, none, some X, none, none, none, none, some O, none] O X [1, 3, 4, 5, 6, 8] rfl rfl (List.cons_ne_nil _ _)]
  show pickBest [(1, (minimaxL 5 [some X, some O, some X, none, none, none, none, some O, none] X O).2), (3, (minimaxL 5 [some X, none, some X, some O, none, none, none, some O, none] X O).2), (4, (minimaxL 5 [some X, none, some X, none, some O, none, none, some O, none] X O).2), (5, (minimaxL 5 [some X, none, some X, none, none, some O, none, some O, none] X O).2), (6, (minimaxL 5 [some X, none, some X, none, none, none, some O, some O, none] X O).2), (8, (minimaxL 5 [some X, none, some X, none, none, none, none, some O, some O] X O).2)] O = (some 1, 1)
  rw [mmv_0155, mmv_0768, mmv_0955, mmv_1077, mmv_1151, mmv_1203]
  rfl

theorem mmv_1205 : minimaxL 5 [some X, none, none, some X, none, none, none, some O, some O] X O = (some 6, 1) := rfl

theorem mmv_1204 : minimaxL 6 [some X, none, none, some X, none, none, none, some O, none] O X = (some 6, -1) := by
  rw [minimaxL_succ 5 [some X, none, none, some X, none, none, none, some O, none] O X [1, 2, 4, 5, 6, 8] rfl rfl (List.cons_ne_nil _ _)]
  show pickBest [(1, (minimaxL 5 [some X, some O, none, some X, none, none, none, some O, none] X O).2), (2, (minimaxL 5 [some X, none, some O, some X, none, none, none, some O, none] X O).2), (4, (minimaxL 5 [some X, none, none, some X, some O, none, none, some O, none] X O).2), (5, (minimaxL 5 [some X, none, none, some X, none, some O, none, some O, none] X O).2), (6, (minimaxL 5 [some X, none, none, some X, none, none, some O, some O, none] X O).2), (8, (minimaxL 5 [some X, none, none, some X, none, none, none, some O, some O] X O).2)] O = (some 6, -1)
  rw [mmv_0221, mmv_0613, mmv_0968, mmv_1108, mmv_1154, mmv_1205]
  rfl

theorem mmv_1208 : minimaxL 4 [some X, some X, none, none, some X, none, none, some O, some O] O X = (some 6, -1) := rfl

theorem mmv_1209 : minimaxL 4 [some X, none, some X, none, some X, none, none, some O, some O] O X = (some 6, -1) := rfl

theorem mmv_1210 : minimaxL 4 [some X, none, none, some X, some X, none, none, some O, some O] O X = (some 6, -1) := rfl

theorem mmv_1211 : minimaxL 4 [some X, none, none, none, some X, some X, none, some O, some O] O X = (some 6, -1) := rfl

theorem mmv_1213 : minimaxL 3 [some X, none, some O, none, some X, none, some X, some O, some O] X O = (some 3, 1) := rfl

theorem mmv_1214 : minimaxL 3 [some X, none, none, none, some X, some O, some X, some O, some O] X O = (some 3, 1) := rfl

theorem mmv_1212 : minimaxL 4 [some X, none, none, none, some X, none, some X, some O, some O] O X = (some 1, 1) := by
  rw [minimaxL_succ 3 [some X, none, none, none, some X, none, some X, some O, some O] O X [1, 2, 3, 5] rfl rfl (List.cons_ne_nil _ _)]
  show pickBest [(1, (minimaxL 3 [some X, some O, none, none, some X, none, some X, some O, some O] X O).2), (2, (minimaxL 3 [some X, none, some O, none, some X, none, some X, some O, some O] X O).2), (3, (minimaxL 3 [some X, none, none, some O, some X, none, some X, some O, some O] X O).2), (5, (minimaxL 3 [some X, none, none, none, some X, some O, some X, some O, some O] X O).2)] O = (some 1, 1)
  rw [mmv_0250, mmv_1213, mmv_0794, mmv_1214]
  rfl

theorem mmv_1207 : minimaxL 5 [some X, none, none, none, some X, none, none, some O, some O] X O = (some 6, 1) := by
  rw [minimaxL_succ 4 [some X, none, none, none, some X, none, none, some O, some O] X O [1, 2, 3, 5, 6] rfl rfl (List.cons_ne_nil _ _)]
  show pickBest [(1, (minimaxL 4 [some X, some X, none, none, some X, none, none, some O, some O] O X).2), (2, (minimaxL 4 [some X, none, some X, none, some X, none, none, some O, some O] O X).2), (3, (minimaxL 4 [some X, none, none, some X, some X, none, none, some O, some O] O X).2), (5, (minimaxL 4 [some X, none, none, none, some X, some X, none, some O, some O] O X).2), (6, (minimaxL 4 [some X, none, none, none, some X, none, some X, some O, some O] O X).2)] X = (some 6, 1)
  rw [mmv_1208, mmv_1209, mmv_1210, mmv_1211, mmv_1212]
  rfl

theorem mmv_1206 : minimaxL 6 [some X, none, none, none, some X, none, none, some O, none] O X = (some 1, 1) := by
  rw [minimaxL_succ 5 [some X, none, none, none, some X, none, none, some O, none] O X [1, 2, 3, 5, 6, 8] rfl rfl (List.cons_ne_nil _ _)]
  show pickBest [(1, (minimaxL 5 [some X, some O, none, none, some X, none, none, some O, none] X O).2), (2, (minimaxL 5 [some X, none, some O, none, some X, none, none, some O, none] X O).2), (3, (minimaxL 5 [some X, none, none, some O, some X, none, none, some O, none] X O).2), (5, (minimaxL 5 [some X, none, none, none, some X, some O, none, some O, none] X O).2), (6, (minimaxL 5 [some X, none, none, none, some X, none, some O, some O, none] X O).2), (8, (minimaxL 5 [some X, none, none, none, some X, none, none, some O, some O] X O).2)] O = (some 1, 1)
  rw [mmv_0228, mmv_0619, mmv_0773, mmv_1112, mmv_1175, mmv_1207]
  rfl

theorem mmv_1217 : minimaxL 4 [some X, some X, none, none, none, some X, none, some O, some O] O X = (some 6, -1) := rfl

theorem mmv_1218 : minimaxL 4 [some X, none, some X, none, none, some X, none, some O, some O] O X = (some 6, -1) := rfl

theorem mmv_1219 : minimaxL 4 [some X, none, none, some X, none, some X, none, some O, some O] O X = (some 6, -1) := rfl

theorem mmv_1220 : minimaxL 4 [some X, none, none, none, none, some X, some X, some O, some O] O X = (some 1, 1) := by
  rw [minimaxL_succ 3 [some X, none, none, none, none, some X, some X, some O, some O] O X [1, 2, 3, 4] rfl rfl (List.cons_ne_nil _ _)]
  show pickBest [(1, (minimaxL 3 [some X, some O, none, none, none, some X, some X, some O, some O] X O).2), (2, (minimaxL 3 [some X, none, some O, none, none, some X, some X, some O, some O] X O).2), (3, (minimaxL 3 [some X, none, none, some O, none, some X, some X, some O, some O] X O).2), (4, (minimaxL 3 [some X, none, none, none, some O, some X, some X, some O, some O] X O).2)] O = (some 1, 1)
  rw [mmv_0371, mmv_0678, mmv_0854, mmv_0998]
  rfl

theorem mmv_1216 : minimaxL 5 [some X, none, none, none, none, some X, none, some O, some O] X O = (some 6, 1) := by
  rw [minimaxL_succ 4 [some X, none, none, none, none, some X, none, some O, some O] X O [1, 2, 3, 4, 6] rfl rfl (List.cons_ne_nil _ _)]
  show pickBest [(1, (minimaxL 4 [some X, some X, none, none, none, some X, none, some O, some O] O X).2), (2, (minimaxL 4 [some X, none, some X, none, none, some X, none, some O, some O] O X).2), (3, (minimaxL 4 [some X, none, none, some X, none, some X, none, some O, some O] O X).2), (4, (minimaxL 4 [some X, none, none, none, some X, some X, none, some O, some O] O X).2), (6, (minimaxL 4 [some X, none, none, none, none, some X, some X, some O, some O] O X).2)] X = (some 6, 1)
  rw [mmv_1217, mmv_1218, mmv_1219, mmv_1211, mmv_1220]
  rfl

theorem mmv_1215 : minimaxL 6 [some X, none, none, none, none, some X, none, some O, none] O X = (some 4, 0) := by
  rw [minimaxL_succ 5 [some X, none, none, none, none, some X, none, some O, none] O X [1, 2, 3, 4, 6, 8] rfl rfl (List.cons_ne_nil _ _)]
  show pickBest [(1, (minimaxL 5 [some X, some O, none, none, none, some X, none, some O, none] X O).2), (2, (minimaxL 5 [some X, none, some O, none, none, some X, none, some O, none] X O).2), (3, (minimaxL 5 [some X, none, none, some O, none, some X, none, some O, none] X O).2), (4, (minimaxL 5 [some X, none, none, none, some O, some X, none, some O, none] X O).2), (6, (minimaxL 5 [some X, none, none, none, none, some X, some O, some O, none] X O).2), (8, (minimaxL 5 [some X, none, none, none, none, some X, none, some O, some O] X O).2)] O = (some 4, 0)
  rw [mmv_0360, mmv_0671, mmv_0847, mmv_0978, mmv_1182, mmv_1216]
  rfl

theorem mmv_1222 : minimaxL 5 [some X, none, none, none, none, none, some X, some O, some O] X O = (some 3, 1) := rfl

theorem mmv_1221 : minimaxL 6 [some X, none, none, none, none, none, some X, some O, none] O X = (some 1, 1) := by
  rw [minimaxL_succ 5 [some X, none, none, none, none, none, some X, some O, none] O X [1, 2, 3, 4, 5, 8] rfl rfl (List.cons_ne_nil _ _)]
  show pickBest [(1, (minimaxL 5 [some X, some O, none, none, none, none, some X, some O, none] X O).2), (2, (minimaxL 5 [some X, none, some O, none, none, none, some X, some O, none] X O).2), (3, (minimaxL 5 [some X, none, none, some O, none, none, some X, some O, none] X O).2), (4, (minimaxL 5 [some X, none, none, none, some O, none, some X, some O, none] X O).2), (5, (minimaxL 5 [some X, none, none, none, none, some O, some X, some O, none] X O).2), (8, (minimaxL 5 [some X, none, none, none, none, none, some X, some O, some O] X O).2)] O = (some 1, 1)
  rw [mmv_0392, mmv_0713, mmv_0876, mmv_1005, mmv_1122, mmv_1222]
  rfl

theorem mmv_1223 : minimaxL 6 [some X, none, none, none, none, none, none, some O, some X] O X = (some 4, 0) := by
  rw [minimaxL_succ 5 [some X, none, none, none, none, none, none, some O, some X] O X [1, 2, 3, 4, 5, 6] rfl rfl (List.cons_ne_nil _ _)]
  show pickBest [(1, (minimaxL 5 [some X, some O, none, none, none, none, none, some O, some X] X O).2), (2, (minimaxL 5 [some X, none, some O, none, none, none, none, some O, some X] X O).2), (3, (minimaxL 5 [some X, none, none, some O, none, none, none, some O, some X] X O).2), (4, (minimaxL 5 [some X, none, none, none, some O, none, none, some O, some X] X O).2), (5, (minimaxL 5 [some X, none, none, none, none, some O, none, some O, some X] X O).2), (6, (minimaxL 5 [some X, none, none, none, none, none, some O, some O, some X] X O).2)] O = (some 4, 0)
  rw [mmv_0454, mmv_0756, mmv_0945, mmv_1062, mmv_1145, mmv_1198]
  rfl

theorem mmv_1199 : minimaxL 7 [some X, none, none, none, none, none, none, some O, none] X O = (some 6, 1) := by
  rw [minimaxL_succ 6 [some X, none, none, none, none, none, none, some O, none] X O [1, 2, 3, 4, 5, 6, 8] rfl rfl (List.cons_ne_nil _ _)]
  show pickBest [(1, (minimaxL 6 [some X, some X, none, none, none, none, none, some O, none] O X).2), (2, (minimaxL 6 [some X, none, some X, none, none, none, none, some O, none] O X).2), (3, (minimaxL 6 [some X, none, none, some X, none, none, none, some O, none] O X).2), (4, (minimaxL 6 [some X, none, none, none, some X, none, none, some O, none] O X).2), (5, (minimaxL 6 [some X, none, none, none, none, some X, none, some O, none] O X).2), (6, (minimaxL 6 [some X, none, none, none, none, none, some X, some O, none] O X).2), (8, (minimaxL 6 [some X, none, none, none, none, none, none, some O, some X] O X).2)] X = (some 6, 1)
  rw [mmv_1200, mmv_1202, mmv_1204, mmv_1206, mmv_1215, mmv_1221, mmv_1223]
  rfl

theorem mmv_1225 : minimaxL 6 [some X, some X, none, none, none, none, none, none, some O] O X = (some 2, -1) := by
  rw [minimaxL_succ 5 [some X, some X, none, none, none, none, none, none, some O] O X [2, 3, 4, 5, 6, 7] rfl rfl (List.cons_ne_nil _ _)]
  show pickBest [(2, (minimaxL 5 [some X, some X, some O, none, none, none, none, none, some O] X O).2), (3, (minimaxL 5 [some X, some X, none, some O, none, none, none, none, some O] X O).2), (4, (minimaxL 5 [some X, some X, none, none, some O, none, none, none, some O] X O).2), (5, (minimaxL 5 [some X, some X, none, none, none, some O, none, none, some O] X O).2), (6, (minimaxL 5 [some X, some X, none, none, none, none, some O, none, some O] X O).2), (7, (minimaxL 5 [some X, some X, none, none, none, none, none, some O, some O] X O).2)] O = (some 2, -1)
  rw [mmv_0588, mmv_0763, mmv_0951, mmv_1074, mmv_1149, mmv_1201]
  rfl

theorem mmv_1226 : minimaxL 6 [some X, none, some X, none, none, none, none, none, some O] O X = (some 1, 1) := by
  rw [minimaxL_succ 5 [some X, none, some X, none, none, none, none, none, some O] O X [1, 3, 4, 5, 6, 7] rfl rfl (List.cons_ne_nil _ _)]
  show pickBest [(1, (minimaxL 5 [some X, some O, some X, none, none, none, none, none, some O] X O).2), (3, (minimaxL 5 [some X, none, some X, some O, none, none, none, none, some O] X O).2), (4, (minimaxL 5 [some X, none, some X, none, some O, none, none, none, some O] X O).2), (5, (minimaxL 5 [some X, none, some X, none, none, some O, none, none, some O] X O).2), (6, (minimaxL 5 [some X, none, some X, none, none, none, some O, none, some O] X O).2), (7, (minimaxL 5 [some X, none, some X, none, none, none, none, some O, some O] X O).2)] O = (some 1, 1)
  rw [mmv_0162, mmv_0769, mmv_0956, mmv_1078, mmv_1152, mmv_1203]
  rfl

theorem mmv_1227 : minimaxL 6 [some X, none, none, some X, none, none, none, none, some O] O X = (some 6, -1) := by
  rw [minimaxL_succ 5 [some X, none, none, some X, none, none, none, none, some O] O X [1, 2, 4, 5, 6, 7] rfl rfl (List.cons_ne_nil _ _)]
  show pickBest [(1, (minimaxL 5 [some X, some O, none, some X, none, none, none, none, some O] X O).2), (2, (minimaxL 5 [some X, none, some O, some X, none, none, none, none, some O] X O).2), (4, (minimaxL 5 [some X, none, none, some X, some O, none, none, none, some O] X O).2), (5, (minimaxL 5 [some X, none, none, some X, none, some O, none, none, some O] X O).2), (6, (minimaxL 5 [some X, none, none, some X, none, none, some O, none, some O] X O).2), (7, (minimaxL 5 [some X, none, none, some X, none, none, none, some O, some O] X O).2)] O = (some 6, -1)
  rw [mmv_0222, mmv_0614, mmv_0969, mmv_1109, mmv_1165, mmv_1205]
  rfl

theorem mmv_1228 : minimaxL 6 [some X, none, none, none, some X, none, none, none, some O] O X = (some 2, 0) := by
  rw [minimaxL_succ 5 [some X, none, none, none, some X, none, none, none, some O] O X [1, 2, 3, 5, 6, 7] rfl rfl (List.cons_ne_nil _ _)]
  show pickBest [(1, (minimaxL 5 [some X, some O, none, none, some X, none, none, none, some O] X O).2), (2, (minimaxL 5 [some X, none, some O, none, some X, none, none, none, some O] X O).2), (3, (minimaxL 5 [some X, none, none, some O, some X, none, none, none, some O] X O).2), (5, (minimaxL 5 [some X, none, none, none, some X, some O, none, none, some O] X O).2), (6, (minimaxL 5 [some X, none, none, none, some X, none, some O, none, some O] X O).2), (7, (minimaxL 5 [some X, none, none, none, some X, none, none, some O, some O] X O).2)] O = (some 2, 0)
  rw [mmv_0229, mmv_0620, mmv_0774, mmv_1113, mmv_1176, mmv_1207]
  rfl

theorem mmv_1229 : minimaxL 6 [some X, none, none, none, none, some X, none, none, some O] O X = (some 3, 0) := by
  rw [minimaxL_succ 5 [some X, none, none, none, none, some X, none, none, some O] O X [1, 2, 3, 4, 6, 7] rfl rfl (List.cons_ne_nil _ _)]
  show pickBest [(1, (minimaxL 5 [some X, some O, none, none, none, some X, none, none, some O] X O).2), (2, (minimaxL 5 [some X, none, some O, none, none, some X, none, none, some O] X O).2), (3, (minimaxL 5 [some X, none, none, some O, none, some X, none, none, some O] X O).2), (4, (minimaxL 5 [some X, none, none, none, some O, some X, none, none, some O] X O).2), (6, (minimaxL 5 [some X, none, none, none, none, some X, some O, none, some O] X O).2), (7, (minimaxL 5 [some X, none, none, none, none, some X, none, some O, some O] X O).2)] O = (some 3, 0)
  rw [mmv_0365, mmv_0684, mmv_0858, mmv_0986, mmv_1188, mmv_1216]
  rfl

theorem mmv_1230 : minimaxL 6 [some X, none, none, none, none, none, some X, none, some O] O X = (some 1, 1) := by
  rw [minimaxL_succ 5 [some X, none, none, none, none, none, some X, none, some O] O X [1, 2, 3, 4, 5, 7] rfl rfl (List.cons_ne_nil _ _)]
  show pickBest [(1, (minimaxL 5 [some X, some O, none, none, none, none, some X, none, some O] X O).2), (2, (minimaxL 5 [some X, none, some O, none, none, none, some X, none, some O] X O).2), (3, (minimaxL 5 [some X, none, none, some O, none, none, some X, none, some O] X O).2), (4, (minimaxL 5 [some X, none, none, none, some O, none, some X, none, some O] X O).2), (5, (minimaxL 5 [some X, none, none, none, none, some O, some X, none, some O] X O).2), (7, (minimaxL 5 [some X, none, none, none, none, none, some X, some O, some O] X O).2)] O = (some 1, 1)
  rw [mmv_0393, mmv_0714, mmv_0891, mmv_1006, mmv_1123, mmv_1222]
  rfl

theorem mmv_1231 : minimaxL 6 [some X, none, none, none, none, none, none, some X, some O] O X = (some 1, 0) := by
  rw [minimaxL_succ 5 [some X, none, none, none, none, none, none, some X, some O] O X [1, 2, 3, 4, 5, 6] rfl rfl (List.cons_ne_nil _ _)]
  show pickBest [(1, (minimaxL 5 [some X, some O, none, none, none, none, none, some X, some O] X O).2), (2, (minimaxL 5 [some X, none, some O, none, none, none, none, some X, some O] X O).2), (3, (minimaxL 5 [some X, none, none, some O, none, none, none, some X, some O] X O).2), (4, (minimaxL 5 [some X, none, none, none, some O, none, none, some X, some O] X O).2), (5, (minimaxL 5 [some X, none, none, none, none, some O, none, some X, some O] X O).2), (6, (minimaxL 5 [some X, none, none, none, none, none, some O, some X, some O] X O).2)] O = (some 1, 0)
  rw [mmv_0443, mmv_0743, mmv_0932, mmv_1027, mmv_1138, mmv_1193]
  rfl

theorem mmv_1224 : minimaxL 7 [some X, none, none, none, none, none, none, none, some O] X O = (some 6, 1) := by
  rw [minimaxL_succ 6 [some X, none, none, none, none, none, none, none, some O] X O [1, 2, 3, 4, 5, 6, 7] rfl rfl (List.cons_ne_nil _ _)]
  show pickBest [(1, (minimaxL 6 [some X, some X, none, none, none, none, none, none, some O] O X).2), (2, (minimaxL 6 [some X, none, some X, none, none, none, none, none, some O] O X).2), (3, (minimaxL 6 [some X, none, none, some X, none, none, none, none, some O] O X).2), (4, (minimaxL 6 [some X, none, none, none, some X, none, none, none, some O] O X).2), (5, (minimaxL 6 [some X, none, none, none, none, some X, none, none, some O] O X).2), (6, (minimaxL 6 [some X, none, none, none, none, none, some X, none, some O] O X).2), (7, (minimaxL 6 [some X, none, none, none, none, none, none, some X, some O] O X).2)] X = (some 6, 1)
  rw [mmv_1225, mmv_1226, mmv_1227, mmv_1228, mmv_1229, mmv_1230, mmv_1231]
  rfl

theorem mmv_0002 : minimaxL 8 [some X, none, none, none, none, none, none, none, none] O X = (some 4, 0) := by
  rw [minimaxL_succ 7 [some X, none, none, none, none, none, none, none, none] O X [1, 2, 3, 4, 5, 6, 7, 8] rfl rfl (List.cons_ne_nil _ _)]
  show pickBest [(1, (minimaxL 7 [some X, some O, none, none, none, none, none, none, none] X O).2), (2, (minimaxL 7 [some X, none, some O, none, none, none, none, none, none] X O).2), (3, (minimaxL 7 [some X, none, none, some O, none, none, none, none, none] X O).2), (4, (minimaxL 7 [some X, none, none, none, some O, none, none, none, none] X O).2), (5, (minimaxL 7 [some X, none, none, none, none, some O, none, none, none] X O).2), (6, (minimaxL 7 [some X, none, none, none, none, none, some O, none, none] X O).2), (7, (minimaxL 7 [some X, none, none, none, none, none, none, some O, none] X O).2), (8, (minimaxL 7 [some X, none, none, none, none, none, none, none, some O] X O).2)] O = (some 4, 0)
  rw [mmv_0003, mmv_0455, mmv_0757, mmv_0946, mmv_1070, mmv_1146, mmv_1199, mmv_1224]
  rfl

theorem mmv_1236 : minimaxL 4 [some O, some X, some X, some O, some X, none, none, none, none] O X = (some 6, -1) := rfl

theorem mmv_1237 : minimaxL 4 [some O, some X, some X, some O, none, some X, none, none, none] O X = (some 6, -1) := rfl

theorem mmv_1240 : minimaxL 2 [some O, some X, some X, some O, some O, some X, some X, none, none] O X = (some 8, -1) := rfl

theorem mmv_1241 : minimaxL 2 [some O, some X, some X, some O, some O, none, some X, some X, none] O X = (some 8, -1) := rfl

theorem mmv_1242 : minimaxL 2 [some O, some X, some X, some O, some O, none, some X, none, some X] O X = (some 5, -1) := rfl

theorem mmv_1239 : minimaxL 3 [some O, some X, some X, some O, some O, none, some X, none, none] X O = (some 8, -1) := by
  rw [minimaxL_succ 2 [some O, some X, some X, some O, some O, none, some X, none, none] X O [5, 7, 8] rfl rfl (List.cons_ne_nil _ _)]
  show pickBest [(5, (minimaxL 2 [some O, some X, some X, some O, some O, some X, some X, none, none] O X).2), (7, (minimaxL 2 [some O, some X, some X, some O, some O, none, some X, some X, none] O X).2), (8, (minimaxL 2 [some O, some X, some X, some O, some O, none, some X, none, some X] O X).2)] X = (some 8, -1)
  rw [mmv_1240, mmv_1241, mmv_1242]
  rfl

theorem mmv_1243 : minimaxL 3 [some O, some X, some X, some O, none, some O, some X, none, none] X O = (some 4, 1) := rfl

theorem mmv_1244 : minimaxL 3 [some O, some X, some X, some O, none, none, some X, some O, none] X O = (some 4, 1) := rfl

theorem mmv_1245 : minimaxL 3 [some O, some X, some X, some O, none, none, some X, none, some O] X O = (some 4, 1) := rfl

theorem mmv_1238 : minimaxL 4 [some O, some X, some X, some O, none, none, some X, none, none] O X = (some 4, -1) := by
  rw [minimaxL_succ 3 [some O, some X, some X, some O, none, none, some X, none, none] O X [4, 5, 7, 8] rfl rfl (List.cons_ne_nil _ _)]
  show pickBest [(4, (minimaxL 3 [some O, some X, some X, some O, some O, none, some X, none, none] X O).2), (5, (minimaxL 3 [some O, some X, some X, some O, none, some O, some X, none, none] X O).2), (7, (minimaxL 3 [some O, some X, some X, some O, none, none, some X, some O, none] X O).2), (8, (minimaxL 3 [some O, some X, some X, some O, none, none, some X, none, some O] X O).2)] O = (some 4, -1)
  rw [mmv_1239, mmv_1243, mmv_1244, mmv_1245]
  rfl

theorem mmv_1246 : minimaxL 4 [some O, some X, some X, some O, none, none, none, some X, none] O X = (some 6, -1) := rfl

theorem mmv_1247 : minimaxL 4 [some O, some X, some X, some O, none, none, none, none, some X] O X = (some 6, -1) := rfl

theorem mmv_1235 : minimaxL 5 [some O, some X, some X, some O, none, none, none, none, none] X O = (some 8, -1) := by
  rw [minimaxL_succ 4 [some O, some X, some X, some O, none, none, none, none, none] X O [4, 5, 6, 7, 8] rfl rfl (List.cons_ne_nil _ _)]
  show pickBest [(4, (minimaxL 4 [some O, some X, some X, some O, some X, none, none, none, none] O X).2), (5, (minimaxL 4 [some O, some X, some X, some O, none, some X, none, none, none] O X).2), (6, (minimaxL 4 [some O, some X, some X, some O, none, none, some X, none, none] O X).2), (7, (minimaxL 4 [some O, some X, some X, some O, none, none, none, some X, none] O X).2), (8, (minimaxL 4 [some O, some X, some X, some O, none, none, none, none, some X] O X).2)] X = (some 8, -1)
  rw [mmv_1236, mmv_1237, mmv_1238, mmv_1246, mmv_1247]
  rfl

theorem mmv_1249 : minimaxL 4 [some O, some X, some X, some X, some O, none, none, none, none] O X = (some 8, -1) := rfl

theorem mmv_1250 : minimaxL 4 [some O, some X, some X, none, some O, some X, none, none, none] O X = (some 8, -1) := rfl

theorem mmv_1251 : minimaxL 4 [some O, some X, some X, none, some O, none, some X, none, none] O X = (some 8, -1) := rfl

theorem mmv_1252 : minimaxL 4 [some O, some X, some X, none, some O, none, none, some X, none] O X = (some 8, -1) := rfl

theorem mmv_1254 : minimaxL 3 [some O, some X, some X, some O, some O, none, none, none, some X] X O = (some 5, 1) := rfl

theorem mmv_1258 : minimaxL 0 [some O, some X, some X, some X, some O, some O, some O, some X, some X] O X = (none, 0) := rfl

theorem mmv_1257 : minimaxL 1 [some O, some X, some X, some X, some O, some O, some O, none, some X] X O = (some 7, 0) := by
  rw [minimaxL_succ 0 [some O, some X, some X, some X, some O, some O, some O, none, some X] X O [7] rfl rfl (List.cons_ne_nil _ _)]
  show pickBest [(7, (minimaxL 0 [some O, some X, some X, some X, some O, some O, some O, some X, some X] O X).2)] X = (some 7, 0)
  rw [mmv_1258]
  rfl

theorem mmv_1260 : minimaxL 0 [some O, some X, some X, some X, some O, some O, some X, some O, some X] O X = (none, 0) := rfl

theorem mmv_1259 : minimaxL 1 [some O, some X, some X, some X, some O, some O, none, some O, some X] X O = (some 6, 0) := by
  rw [minimaxL_succ 0 [some O, some X, some X, some X, some O, some O, none, some O, some X] X O [6] rfl rfl (List.cons_ne_nil _ _)]
  show pickBest [(6, (minimaxL 0 [some O, some X, some X, some X, some O, some O, some X, some O, some X] O X).2)] X = (some 6, 0)
  rw [mmv_1260]
  rfl

theorem mmv_1256 : minimaxL 2 [some O, some X, some X, some X, some O, some O, none, none, some X] O X = (some 6, 0) := by
  rw [minimaxL_succ 1 [some O, some X, some X, some X, some O, some O, none, none, some X] O X [6, 7] rfl rfl (List.cons_ne_nil _ _)]
  show pickBest [(6, (minimaxL 1 [some O, some X, some X, some X, some O, some O, some O, none, some X] X O).2), (7, (minimaxL 1 [some O, some X, some X, some X, some O, some O, none, some O, some X] X O).2)] O = (some 6, 0)
  rw [mmv_1257, mmv_1259]
  rfl

theorem mmv_1261 : minimaxL 2 [some O, some X, some X, none, some O, some O, some X, none, some X] O X = (some 3, -1) := rfl

theorem mmv_1262 : minimaxL 2 [some O, some X, some X, none, some O, some O, none, some X, some X] O X = (some 3, -1) := rfl

theorem mmv_1255 : minimaxL 3 [some O, some X, some X, none, some O, some O, none, none, some X] X O = (some 3, 0) := by
  rw [minimaxL_succ 2 [some O, some X, some X, none, some O, some O, none, none, some X] X O [3, 6, 7] rfl rfl (List.cons_ne_nil _ _)]
  show pickBest [(3, (minimaxL 2 [some O, some X, some X, some X, some O, some O, none, none, some X] O X).2), (6, (minimaxL 2 [some O, some X, some X, none, some O, some O, some X, none, some X] O X).2), (7, (minimaxL 2 [some O, some X, some X, none, some O, some O, none, some X, some X] O X).2)] X = (some 3, 0)
  rw [mmv_1256, mmv_1261, mmv_1262]
  rfl

theorem mmv_1263 : minimaxL 3 [some O, some X, some X, none, some O, none, some O, none, some X] X O = (some 5, 1) := rfl

theorem mmv_1264 : minimaxL 3 [some O, some X, some X, none, some O, none, none, some O, some X] X O = (some 5, 1) := rfl

theorem mmv_1253 : minimaxL 4 [some O, some X, some X, none, some O, none, none, none, some X] O X = (some 5, 0) := by
  rw [minimaxL_succ 3 [some O, some X, some X, none, some O, none, none, none, some X] O X [3, 5, 6, 7] rfl rfl (List.cons_ne_nil _ _)]
  show pickBest [(3, (minimaxL 3 [some O, some X, some X, some O, some O, none, none, none, some X] X O).2), (5, (minimaxL 3 [some O, some X, some X, none, some O, some O, none, none, some X] X O).2), (6, (minimaxL 3 [some O, some X, some X, none, some O, none, some O, none, some X] X O).2), (7, (minimaxL 3 [some O, some X, some X, none, some O, none, none, some O, some X] X O).2)] O = (some 5, 0)
  rw [mmv_1254, mmv_1255, mmv_1263, mmv_1264]
  rfl

theorem mmv_1248 : minimaxL 5 [some O, some X, some X, none, some O, none, none, none, none] X O = (some 8, 0) := by
  rw [minimaxL_succ 4 [some O, some X, some X, none, some O, none, none, none, none] X O [3, 5, 6, 7, 8] rfl rfl (List.cons_ne_nil _ _)]
  show pickBest [(3, (minimaxL 4 [some O, some X, some X, some X, some O, none, none, none, none] O X).2), (5, (minimaxL 4 [some O, some X, some X, none, some O, some X, none, none, none] O X).2), (6, (minimaxL 4 [some O, some X, some X, none, some O, none, some X, none, none] O X).2), (7, (minimaxL 4 [some O, some X, some X, none, some O, none, none, some X, none] O X).2), (8, (minimaxL 4 [some O, some X, some X, none, some O, none, none, none, some X] O X).2)] X = (some 8, 0)
  rw [mmv_1249, mmv_1250, mmv_1251, mmv_1252, mmv_1253]
  rfl

theorem mmv_1268 : minimaxL 2 [some O, some X, some X, some X, some O, some O, some X, none, none] O X = (some 8, -1) := rfl

theorem mmv_1269 : minimaxL 2 [some O, some X, some X, some X, some O, some O, none, some X, none] O X = (some 8, -1) := rfl

theorem mmv_1267 : minimaxL 3 [some O, some X, some X, some X, some O, some O, none, none, none] X O = (some 8, 0) := by
  rw [minimaxL_succ 2 [some O, some X, some X, some X, some O, some O, none, none, none] X O [6, 7, 8] rfl rfl (List.cons_ne_nil _ _)]
  show pickBest [(6, (minimaxL 2 [some O, some X, some X, some X, some O, some O, some X, none, none] O X).2), (7, (minimaxL 2 [some O, some X, some X, some X, some O, some O, none, some X, none] O X).2), (8, (minimaxL 2 [some O, some X, some X, some X, some O, some O, none, none, some X] O X).2)] X = (some 8, 0)
  rw [mmv_1268, mmv_1269, mmv_1256]
  rfl

theorem mmv_1273 : minimaxL 0 [some O, some X, some X, some X, some X, some O, some O, some O, some X] O X = (none, 0) := rfl

theorem mmv_1272 : minimaxL 1 [some O, some X, some X, some X, some X, some O, some O, some O, none] X O = (some 8, 0) := by
  rw [minimaxL_succ 0 [some O, some X, some X, some X, some X, some O, some O, some O, none] X O [8] rfl rfl (List.cons_ne_nil _ _)]
  show pickBest [(8, (minimaxL 0 [some O, some X, some X, some X, some X, some O, some O, some O, some X] O X).2)] X = (some 8, 0)
  rw [mmv_1273]
  rfl

theorem mmv_1274 : minimaxL 1 [some O, some X, some X, some X, some X, some O, some O, none, some O] X O = (some 7, 1) := rfl

theorem mmv_1271 : minimaxL 2 [some O, some X, some X, some X, some X, some O, some O, none, none] O X = (some 7, 0) := by
  rw [minimaxL_succ 1 [some O, some X, some X, some X, some X, some O, some O, none, none] O X [7, 8] rfl rfl (List.cons_ne_nil _ _)]
  show pickBest [(7, (minimaxL 1 [some O, some X, some X, some X, some X, some O, some O, some O, none] X O).2), (8, (minimaxL 1 [some O, some X, some X, some X, some X, some O, some O, none, some O] X O).2)] O = (some 7, 0)
  rw [mmv_1272, mmv_1274]
  rfl

theorem mmv_1276 : minimaxL 1 [some O, some X, some X, some X, some O, some O, some O, some X, none] X O = (some 8, 0) := by
  rw [minimaxL_succ 0 [some O, some X, some X, some X, some O, some O, some O, some X, none] X O [8] rfl rfl (List.cons_ne_nil _ _)]
  show pickBest [(8, (minimaxL 0 [some O, some X, some X, some X, some O, some O, some O, some X, some X] O X).2)] X = (some 8, 0)
  rw [mmv_1258]
  rfl

theorem mmv_1277 : minimaxL 1 [some O, some X, some X, some X, none, some O, some O, some X, some O] X O = (some 4, 1) := rfl

theorem mmv_1275 : minimaxL 2 [some O, some X, some X, some X, none, some O, some O, some X, none] O X = (some 4, 0) := by
  rw [minimaxL_succ 1 [some O, some X, some X, some X, none, some O, some O, some X, none] O X [4, 8] rfl rfl (List.cons_ne_nil _ _)]
  show pickBest [(4, (minimaxL 1 [some O, some X, some X, some X, some O, some O, some O, some X, none] X O).2), (8, (minimaxL 1 [some O, some X, some X, some X, none, some O, some O, some X, some O] X O).2)] O = (some 4, 0)
  rw [mmv_1276, mmv_1277]
  rfl

theorem mmv_1279 : minimaxL 1 [some O, some X, some X, some X, none, some O, some O, some O, some X] X O = (some 4, 0) := by
  rw [minimaxL_succ 0 [some O, some X, some X, some X, none, some O, some O, some O, some X] X O [4] rfl rfl (List.cons_ne_nil _ _)]
  show pickBest [(4, (minimaxL 0 [some O, some X, some X, some X, some X, some O, some O, some O, some X] O X).2)] X = (some 4, 0)
  rw [mmv_1273]
  rfl

theorem mmv_1278 : minimaxL 2 [some O, some X, some X, some X, none, some O, some O, none, some X] O X = (some 4, 0) := by
  rw [minimaxL_succ 1 [some O, some X, some X, some X, none, some O, some O, none, some X] O X [4, 7] rfl rfl (List.cons_ne_nil _ _)]
  show pickBest [(4, (minimaxL 1 [some O, some X, some X, some X, some O, some O, some O, none, some X] X O).2), (7, (minimaxL 1 [some O, some X, some X, some X, none, some O, some O, some O, some X] X O).2)] O = (some 4, 0)
  rw [mmv_1257, mmv_1279]
  rfl

theorem mmv_1270 : minimaxL 3 [some O, some X, some X, some X, none, some O, some O, none, none] X O = (some 8, 0) := by
  rw [minimaxL_succ 2 [some O, some X, some X, some X, none, some O, some O, none, none] X O [4, 7, 8] rfl rfl (List.cons_ne_nil _ _)]
  show pickBest [(4, (minimaxL 2 [some O, some X, some X, some X, some X, some O, some O, none, none] O X).2), (7, (minimaxL 2 [some O, some X, some X, some X, none, some O, some O, some X, none] O X).2), (8, (minimaxL 2 [some O, some X, some X, some X, none, some O, some O, none, some X] O X).2)] X = (some 8, 0)
  rw [mmv_1271, mmv_1275, mmv_1278]
  rfl

theorem mmv_1282 : minimaxL 1 [some O, some X, some X, some X, some X, some O, none, some O, some O] X O = (some 6, 1) := rfl

theorem mmv_1281 : minimaxL 2 [some O, some X, some X, some X, some X, some O, none, some O, none] O X = (some 6, 0) := by
  rw [minimaxL_succ 1 [some O, some X, some X, some X, some X, some O, none, some O, none] O X [6, 8] rfl rfl (List.cons_ne_nil _ _)]
  show pickBest [(6, (minimaxL 1 [some O, some X, some X, some X, some X, some O, some O, some O, none] X O).2), (8, (minimaxL 1 [some O, some X, some X, some X, some X, some O, none, some O, some O] X O).2)] O = (some 6, 0)
  rw [mmv_1272, mmv_1282]
  rfl

theorem mmv_1284 : minimaxL 1 [some O, some X, some X, some X, some O, some O, some X, some O, none] X O = (some 8, 0) := by
  rw [minimaxL_succ 0 [some O, some X, some X, some X, some O, some O, some X, some O, none] X O [8] rfl rfl (List.cons_ne_nil _ _)]
  show pickBest [(8, (minimaxL 0 [some O, some X, some X, some X, some O, some O, some X, some O, some X] O X).2)] X = (some 8, 0)
  rw [mmv_1260]
  rfl

theorem mmv_1285 : minimaxL 1 [some O, some X, some X, some X, none, some O, some X, some O, some O] X O = (some 4, 1) := rfl

theorem mmv_1283 : minimaxL 2 [some O, some X, some X, some X, none, some O, some X, some O, none] O X = (some 4, 0) := by
  rw [minimaxL_succ 1 [some O, some X, some X, some X, none, some O, some X, some O, none] O X [4, 8] rfl rfl (List.cons_ne_nil _ _)]
  show pickBest [(4, (minimaxL 1 [some O, some X, some X, some X, some O, some O, some X, some O, none] X O).2), (8, (minimaxL 1 [some O, some X, some X, some X, none, some O, some X, some O, some O] X O).2)] O = (some 4, 0)
  rw [mmv_1284, mmv_1285]
  rfl

theorem mmv_1286 : minimaxL 2 [some O, some X, some X, some X, none, some O, none, some O, some X] O X = (some 4, 0) := by
  rw [minimaxL_succ 1 [some O, some X, some X, some X, none, some O, none, some O, some X] O X [4, 6] rfl rfl (List.cons_ne_nil _ _)]
  show pickBest [(4, (minimaxL 1 [some O, some X, some X, some X, some O, some O, none, some O, some X] X O).2), (6, (minimaxL 1 [some O, some X, some X, some X, none, some O, some O, some O, some X] X O).2)] O = (some 4, 0)
  rw [mmv_1259, mmv_1279]
  rfl

theorem mmv_1280 : minimaxL 3 [some O, some X, some X, some X, none, some O, none, some O, none] X O = (some 8, 0) := by
  rw [minimaxL_succ 2 [some O, some X, some X, some X, none, some O, none, some O, none] X O [4, 6, 8] rfl rfl (List.cons_ne_nil _ _)]
  show pickBest [(4, (minimaxL 2 [some O, some X, some X, some X, some X, some O, none, some O, none] O X).2), (6, (minimaxL 2 [some O, some X, some X, some X, none, some O, some X, some O, none] O X).2), (8, (minimaxL 2 [some O, some X, some X, some X, none, some O, none, some O, some X] O X).2)] X = (some 8, 0)
  rw [mmv_1281, mmv_1283, mmv_1286]
  rfl

theorem mmv_1288 : minimaxL 2 [some O, some X, some X, some X, some X, some O, none, none, some O] O X = (some 6, 1) := by
  rw [minimaxL_succ 1 [some O, some X, some X, some X, some X, some O, none, none, some O] O X [6, 7] rfl rfl (List.cons_ne_nil _ _)]
  show pickBest [(6, (minimaxL 1 [some O, some X, some X, some X, some X, some O, some O, none, some O] X O).2), (7, (minimaxL 1 [some O, some X, some X, some X, some X, some O, none, some O, some O] X O).2)] O = (some 6, 1)
  rw [mmv_1274, mmv_1282]
  rfl

theorem mmv_1289 : minimaxL 2 [some O, some X, some X, some X, none, some O, some X, none, some O] O X = (some 4, -1) := rfl

theorem mmv_1290 : minimaxL 2 [some O, some X, some X, some X, none, some O, none, some X, some O] O X = (some 4, -1) := rfl

theorem mmv_1287 : minimaxL 3 [some O, some X, some X, some X, none, some O, none, none, some O] X O = (some 4, 1) := by
  rw [minimaxL_succ 2 [some O, some X, some X, some X, none, some O, none, none, some O] X O [4, 6, 7] rfl rfl (List.cons_ne_nil _ _)]
  show pickBest [(4, (minimaxL 2 [some O, some X, some X, some X, some X, some O, none, none, some O] O X).2), (6, (minimaxL 2 [some O, some X, some X, some X, none, some O, some X, none, some O] O X).2), (7, (minimaxL 2 [some O, some X, some X, some X, none, some O, none, some X, some O] O X).2)] X = (some 4, 1)
  rw [mmv_1288, mmv_1289, mmv_1290]
  rfl

theorem mmv_1266 : minimaxL 4 [some O, some X, some X, some X, none, some O, none, none, none] O X = (some 4, 0) := by
  rw [minimaxL_succ 3 [some O, some X, some X, some X, none, some O, none, none, none] O X [4, 6, 7, 8] rfl rfl (List.cons_ne_nil _ _)]
  show pickBest [(4, (minimaxL 3 [some O, some X, some X, some X, some O, some O, none, none, none] X O).2), (6, (minimaxL 3 [some O, some X, some X, some X, none, some O, some O, none, none] X O).2), (7, (minimaxL 3 [some O, some X, some X, some X, none, some O, none, some O, none] X O).2), (8, (minimaxL 3 [some O, some X, some X, some X, none, some O, none, none, some O] X O).2)] O = (some 4, 0)
  rw [mmv_1267, mmv_1270, mmv_1280, mmv_1287]
  rfl

theorem mmv_1292 : minimaxL 3 [some O, some X, some X, some O, some X, some O, none, none, none] X O = (some 7, 1) := rfl

theorem mmv_1293 : minimaxL 3 [some O, some X, some X, none, some X, some O, some O, none, none] X O = (some 7, 1) := rfl

theorem mmv_1294 : minimaxL 3 [some O, some X, some X, none, some X, some O, none, some O, none] X O = (some 6, 1) := rfl

theorem mmv_1295 : minimaxL 3 [some O, some X, some X, none, some X, some O, none, none, some O] X O = (some 7, 1) := rfl

theorem mmv_1291 : minimaxL 4 [some O, some X, some X, none, some X, some O, none, none, none] O X = (some 3, 1) := by
  rw [minimaxL_succ 3 [some O, some X, some X, none, some X, some O, none, none, none] O X [3, 6, 7, 8] rfl rfl (List.cons_ne_nil _ _)]
  show pickBest [(3, (minimaxL 3 [some O, some X, some X, some O, some X, some O, none, none, none] X O).2), (6, (minimaxL 3 [some O, some X, some X, none, some X, some O, some O, none, none] X O).2), (7, (minimaxL 3 [some O, some X, some X, none, some X, some O, none, some O, none] X O).2), (8, (minimaxL 3 [some O, some X, some X, none, some X, some O, none, none, some O] X O).2)] O = (some 3, 1)
  rw [mmv_1292, mmv_1293, mmv_1294, mmv_1295]
  rfl

theorem mmv_1298 : minimaxL 2 [some O, some X, some X, none, some O, some O, some X, some X, none] O X = (some 8, -1) := rfl

theorem mmv_1297 : minimaxL 3 [some O, some X, some X, none, some O, some O, some X, none, none] X O = (some 8, -1) := by
  rw [minimaxL_succ 2 [some O, some X, some X, none, some O, some O, some X, none, none] X O [3, 7, 8] rfl rfl (List.cons_ne_nil _ _)]
  show pickBest [(3, (minimaxL 2 [some O, some X, some X, some X, some O, some O, some X, none, none] O X).2), (7, (minimaxL 2 [some O, some X, some X, none, some O, some O, some X, some X, none] O X).2), (8, (minimaxL 2 [some O, some X, some X, none, some O, some O, some X, none, some X] O X).2)] X = (some 8, -1)
  rw [mmv_1268, mmv_1298, mmv_1261]
  rfl

theorem mmv_1299 : minimaxL 3 [some O, some X, some X, none, none, some O, some X, some O, none] X O = (some 4, 1) := rfl

theorem mmv_1300 : minimaxL 3 [some O, some X, some X, none, none, some O, some X, none, some O] X O = (some 4, 1) := rfl

theorem mmv_1296 : minimaxL 4 [some O, some X, some X, none, none, some O, some X, none, none] O X = (some 4, -1) := by
  rw [minimaxL_succ 3 [some O, some X, some X, none, none, some O, some X, none, none] O X [3, 4, 7, 8] rfl rfl (List.cons_ne_nil _ _)]
  show pickBest [(3, (minimaxL 3 [some O, some X, some X, some O, none, some O, some X, none, none] X O).2), (4, (minimaxL 3 [some O, some X, some X, none, some O, some O, some X, none, none] X O).2), (7, (minimaxL 3 [some O, some X, some X, none, none, some O, some X, some O, none] X O).2), (8, (minimaxL 3 [some O, some X, some X, none, none, some O, some X, none, some O] X O).2)] O = (some 4, -1)
  rw [mmv_1243, mmv_1297, mmv_1299, mmv_1300]
  rfl

theorem mmv_1302 : minimaxL 3 [some O, some X, some X, some O, none, some O, none, some X, none] X O = (some 4, 1) := rfl

theorem mmv_1303 : minimaxL 3 [some O, some X, some X, none, some O, some O, none, some X, none] X O = (some 8, -1) := by
  rw [minimaxL_succ 2 [some O, some X, some X, none, some O, some O, none, some X, none] X O [3, 6, 8] rfl rfl (List.cons_ne_nil _ _)]
  show pickBest [(3, (minimaxL 2 [some O, some X, some X, some X, some O, some O, none, some X, none] O X).2), (6, (minimaxL 2 [some O, some X, some X, none, some O, some O, some X, some X, none] O X).2), (8, (minimaxL 2 [some O, some X, some X, none, some O, some O, none, some X, some X] O X).2)] X = (some 8, -1)
  rw [mmv_1269, mmv_1298, mmv_1262]
  rfl

theorem mmv_1304 : minimaxL 3 [some O, some X, some X, none, none, some O, some O, some X, none] X O = (some 4, 1) := rfl

theorem mmv_1305 : minimaxL 3 [some O, some X, some X, none, none, some O, none, some X, some O] X O = (some 4, 1) := rfl

theorem mmv_1301 : minimaxL 4 [some O, some X, some X, none, none, some O, none, some X, none] O X = (some 4, -1) := by
  rw [minimaxL_succ 3 [some O, some X, some X, none, none, some O, none, some X, none] O X [3, 4, 6, 8] rfl rfl (List.cons_ne_nil _ _)]
  show pickBest [(3, (minimaxL 3 [some O, some X, some X, some O, none, some O, none, some X, none] X O).2), (4, (minimaxL 3 [some O, some X, some X, none, some O, some O, none, some X, none] X O).2), (6, (minimaxL 3 [some O, some X, some X, none, none, some O, some O, some X, none] X O).2), (8, (minimaxL 3 [some O, some X, some X, none, none, some O, none, some X, some O] X O).2)] O = (some 4, -1)
  rw [mmv_1302, mmv_1303, mmv_1304, mmv_1305]
  rfl

theorem mmv_1308 : minimaxL 2 [some O, some X, some X, some O, some X, some O, none, none, some X] O X = (some 6, -1) := rfl

theorem mmv_1309 : minimaxL 2 [some O, some X, some X, some O, none, some O, some X, none, some X] O X = (some 4, -1) := rfl

theorem mmv_1310 : minimaxL 2 [some O, some X, some X, some O, none, some O, none, some X, some X] O X = (some 6, -1) := rfl

theorem mmv_1307 : minimaxL 3 [some O, some X, some X, some O, none, some O, none, none, some X] X O = (some 7, -1) := by
  rw [minimaxL_succ 2 [some O, some X, some X, some O, none, some O, none, none, some X] X O [4, 6, 7] rfl rfl (List.cons_ne_nil _ _)]
  show pickBest [(4, (minimaxL 2 [some O, some X, some X, some O, some X, some O, none, none, some X] O X).2), (6, (minimaxL 2 [some O, some X, some X, some O, none, some O, some X, none, some X] O X).2), (7, (minimaxL 2 [some O, some X, some X, some O, none, some O, none, some X, some X] O X).2)] X = (some 7, -1)
  rw [mmv_1308, mmv_1309, mmv_1310]
  rfl

theorem mmv_1312 : minimaxL 2 [some O, some X, some X, none, some X, some O, some O, none, some X] O X = (some 3, -1) := rfl

theorem mmv_1313 : minimaxL 2 [some O, some X, some X, none, none, some O, some O, some X, some X] O X = (some 3, -1) := rfl

theorem mmv_1311 : minimaxL 3 [some O, some X, some X, none, none, some O, some O, none, some X] X O = (some 3, 0) := by
  rw [minimaxL_succ 2 [some O, some X, some X, none, none, some O, some O, none, some X] X O [3, 4, 7] rfl rfl (List.cons_ne_nil _ _)]
  show pickBest [(3, (minimaxL 2 [some O, some X, some X, some X, none, some O, some O, none, some X] O X).2), (4, (minimaxL 2 [some O, some X, some X, none, some X, some O, some O, none, some X] O X).2), (7, (minimaxL 2 [some O, some X, some X, none, none, some O, some O, some X, some X] O X).2)] X = (some 3, 0)
  rw [mmv_1278, mmv_1312, mmv_1313]
  rfl

theorem mmv_1316 : minimaxL 1 [some O, some X, some X, some O, some X, some O, none, some O, some X] X O = (some 6, 1) := rfl

theorem mmv_1317 : minimaxL 1 [some O, some X, some X, none, some X, some O, some O, some O, some X] X O = (some 3, 0) := by
  rw [minimaxL_succ 0 [some O, some X, some X, none, some X, some O, some O, some O, some X] X O [3] rfl rfl (List.cons_ne_nil _ _)]
  show pickBest [(3, (minimaxL 0 [some O, some X, some X, some X, some X, some O, some O, some O, some X] O X).2)] X = (some 3, 0)
  rw [mmv_1273]
  rfl

theorem mmv_1315 : minimaxL 2 [some O, some X, some X, none, some X, some O, none, some O, some X] O X = (some 6, 0) := by
  rw [minimaxL_succ 1 [some O, some X, some X, none, some X, some O, none, some O, some X] O X [3, 6] rfl rfl (List.cons_ne_nil _ _)]
  show pickBest [(3, (minimaxL 1 [some O, some X, some X, some O, some X, some O, none, some O, some X] X O).2), (6, (minimaxL 1 [some O, some X, some X, none, some X, some O, some O, some O, some X] X O).2)] O = (some 6, 0)
  rw [mmv_1316, mmv_1317]
  rfl

theorem mmv_1319 : minimaxL 1 [some O, some X, some X, some O, none, some O, some X, some O, some X] X O = (some 4, 1) := rfl

theorem mmv_1320 : minimaxL 1 [some O, some X, some X, none, some O, some O, some X, some O, some X] X O = (some 3, 0) := by
  rw [minimaxL_succ 0 [some O, some X, some X, none, some O, some O, some X, some O, some X] X O [3] rfl rfl (List.cons_ne_nil _ _)]
  show pickBest [(3, (minimaxL 0 [some O, some X, some X, some X, some O, some O, some X, some O, some X] O X).2)] X = (some 3, 0)
  rw [mmv_1260]
  rfl

theorem mmv_1318 : minimaxL 2 [some O, some X, some X, none, none, some O, some X, some O, some X] O X = (some 4, 0) := by
  rw [minimaxL_succ 1 [some O, some X, some X, none, none, some O, some X, some O, some X] O X [3, 4] rfl rfl (List.cons_ne_nil _ _)]
  show pickBest [(3, (minimaxL 1 [some O, some X, some X, some O, none, some O, some X, some O, some X] X O).2), (4, (minimaxL 1 [some O, some X, some X, none, some O, some O, some X, some O, some X] X O).2)] O = (some 4, 0)
  rw [mmv_1319, mmv_1320]
  rfl

theorem mmv_1314 : minimaxL 3 [some O, some X, some X, none, none, some O, none, some O, some X] X O = (some 6, 0) := by
  rw [minimaxL_succ 2 [some O, some X, some X, none, none, some O, none, some O, some X] X O [3, 4, 6] rfl rfl (List.cons_ne_nil _ _)]
  show pickBest [(3, (minimaxL 2 [some O, some X, some X, some X, none, some O, none, some O, some X] O X).2), (4, (minimaxL 2 [some O, some X, some X, none, some X, some O, none, some O, some X] O X).2), (6, (minimaxL 2 [some O, some X, some X, none, none, some O, some X, some O, some X] O X).2)] X = (some 6, 0)
  rw [mmv_1286, mmv_1315, mmv_1318]
  rfl

theorem mmv_1306 : minimaxL 4 [some O, some X, some X, none, none, some O, none, none, some X] O X = (some 3, -1) := by
  rw [minimaxL_succ 3 [some O, some X, some X, none, none, some O, none, none, some X] O X [3, 4, 6, 7] rfl rfl (List.cons_ne_nil _ _)]
  show pickBest [(3, (minimaxL 3 [some O, some X, some X, some O, none, some O, none, none, some X] X O).2), (4, (minimaxL 3 [some O, some X, some X, none, some O, some O, none, none, some X] X O).2), (6, (minimaxL 3 [some O, some X, some X, none, none, some O, some O, none, some X] X O).2), (7, (minimaxL 3 [some O, some X, some X, none, none, some O, none, some O, some X] X O).2)] O = (some 3, -1)
  rw [mmv_1307, mmv_1255, mmv_1311, mmv_1314]
  rfl

theorem mmv_1265 : minimaxL 5 [some O, some X, some X, none, none, some O, none, none, none] X O = (some 4, 1) := by
  rw [minimaxL_succ 4 [some O, some X, some X, none, none, some O, none, none, none] X O [3, 4, 6, 7, 8] rfl rfl (List.cons_ne_nil _ _)]
  show pickBest [(3, (minimaxL 4 [some O, some X, some X, some X, none, some O, none, none, none] O X).2), (4, (minimaxL 4 [some O, some X, some X, none, some X, some O, none, none, none] O X).2), (6, (minimaxL 4 [some O, some X, some X, none, none, some O, some X, none, none] O X).2), (7, (minimaxL 4 [some O, some X, some X, none, none, some O, none, some X, none] O X).2), (8, (minimaxL 4 [some O, some X, some X, none, none, some O, none, none, some X] O X).2)] X = (some 4, 1)
  rw [mmv_1266, mmv_1291, mmv_1296, mmv_1301, mmv_1306]
  rfl

theorem mmv_1324 : minimaxL 2 [some O, some X, some X, some X, some O, some X, some O, none, none] O X = (some 8, -1) := rfl

theorem mmv_1325 : minimaxL 2 [some O, some X, some X, some X, some O, none, some O, some X, none] O X = (some 8, -1) := rfl

theorem mmv_1327 : minimaxL 1 [some O, some X, some X, some X, some O, none, some O, some O, some X] X O = (some 5, 1) := rfl

theorem mmv_1326 : minimaxL 2 [some O, some X, some X, some X, some O, none, some O, none, some X] O X = (some 5, 0) := by
  rw [minimaxL_succ 1 [some O, some X, some X, some X, some O, none, some O, none, some X] O X [5, 7] rfl rfl (List.cons_ne_nil _ _)]
  show pickBest [(5, (minimaxL 1 [some O, some X, some X, some X, some O, some O, some O, none, some X] X O).2), (7, (minimaxL 1 [some O, some X, some X, some X, some O, none, some O, some O, some X] X O).2)] O = (some 5, 0)
  rw [mmv_1257, mmv_1327]
  rfl

theorem mmv_1323 : minimaxL 3 [some O, some X, some X, some X, some O, none, some O, none, none] X O = (some 8, 0) := by
  rw [minimaxL_succ 2 [some O, some X, some X, some X, some O, none, some O, none, none] X O [5, 7, 8] rfl rfl (List.cons_ne_nil _ _)]
  show pickBest [(5, (minimaxL 2 [some O, some X, some X, some X, some O, some X, some O, none, none] O X).2), (7, (minimaxL 2 [some O, some X, some X, some X, some O, none, some O, some X, none] O X).2), (8, (minimaxL 2 [some O, some X, some X, some X, some O, none, some O, none, some X] O X).2)] X = (some 8, 0)
  rw [mmv_1324, mmv_1325, mmv_1326]
  rfl

theorem mmv_1329 : minimaxL 2 [some O, some X, some X, some X, some X, none, some O, some O, none] O X = (some 8, -1) := rfl

theorem mmv_1330 : minimaxL 2 [some O, some X, some X, some X, none, some X, some O, some O, none] O X = (some 8, -1) := rfl

theorem mmv_1331 : minimaxL 2 [some O, some X, some X, some X, none, none, some O, some O, some X] O X = (some 5, 0) := by
  rw [minimaxL_succ 1 [some O, some X, some X, some X, none, none, some O, some O, some X] O X [4, 5] rfl rfl (List.cons_ne_nil _ _)]
  show pickBest [(4, (minimaxL 1 [some O, some X, some X, some X, some O, none, some O, some O, some X] X O).2), (5, (minimaxL 1 [some O, some X, some X, some X, none, some O, some O, some O, some X] X O).2)] O = (some 5, 0)
  rw [mmv_1327, mmv_1279]
  rfl

theorem mmv_1328 : minimaxL 3 [some O, some X, some X, some X, none, none, some O, some O, none] X O = (some 8, 0) := by
  rw [minimaxL_succ 2 [some O, some X, some X, some X, none, none, some O, some O, none] X O [4, 5, 8] rfl rfl (List.cons_ne_nil _ _)]
  show pickBest [(4, (minimaxL 2 [some O, some X, some X, some X, some X, none, some O, some O, none] O X).2), (5, (minimaxL 2 [some O, some X, some X, some X, none, some X, some O, some O, none] O X).2), (8, (minimaxL 2 [some O, some X, some X, some X, none, none, some O, some O, some X] O X).2)] X = (some 8, 0)
  rw [mmv_1329, mmv_1330, mmv_1331]
  rfl

theorem mmv_1333 : minimaxL 2 [some O, some X, some X, some X, some X, none, some O, none, some O] O X = (some 7, -1) := rfl

theorem mmv_1334 : minimaxL 2 [some O, some X, some X, some X, none, some X, some O, none, some O] O X = (some 4, -1) := rfl

theorem mmv_1335 : minimaxL 2 [some O, some X, some X, some X, none, none, some O, some X, some O] O X = (some 4, -1) := rfl

theorem mmv_1332 : minimaxL 3 [some O, some X, some X, some X, none, none, some O, none, some O] X O = (some 7, -1) := by
  rw [minimaxL_succ 2 [some O, some X, some X, some X, none, none, some O, none, some O] X O [4, 5, 7] rfl rfl (List.cons_ne_nil _ _)]
  show pickBest [(4, (minimaxL 2 [some O, some X, some X, some X, some X, none, some O, none, some O] O X).2), (5, (minimaxL 2 [some O, some X, some X, some X, none, some X, some O, none, some O] O X).2), (7, (minimaxL 2 [some O, some X, some X, some X, none, none, some O, some X, some O] O X).2)] X = (some 7, -1)
  rw [mmv_1333, mmv_1334, mmv_1335]
  rfl

theorem mmv_1322 : minimaxL 4 [some O, some X, some X, some X, none, none, some O, none, none] O X = (some 8, -1) := by
  rw [minimaxL_succ 3 [some O, some X, some X, some X, none, none, some O, none, none] O X [4, 5, 7, 8] rfl rfl (List.cons_ne_nil _ _)]
  show pickBest [(4, (minimaxL 3 [some O, some X, some X, some X, some O, none, some O, none, none] X O).2), (5, (minimaxL 3 [some O, some X, some X, some X, none, some O, some O, none, none] X O).2), (7, (minimaxL 3 [some O, some X, some X, some X, none, none, some O, some O, none] X O).2), (8, (minimaxL 3 [some O, some X, some X, some X, none, none, some O, none, some O] X O).2)] O = (some 8, -1)
  rw [mmv_1323, mmv_1270, mmv_1328, mmv_1332]
  rfl

theorem mmv_1336 : minimaxL 4 [some O, some X, some X, none, some X, none, some O, none, none] O X = (some 3, -1) := rfl

theorem mmv_1337 : minimaxL 4 [some O, some X, some X, none, none, some X, some O, none, none] O X = (some 3, -1) := rfl

theorem mmv_1338 : minimaxL 4 [some O, some X, some X, none, none, none, some O, some X, none] O X = (some 3, -1) := rfl

theorem mmv_1339 : minimaxL 4 [some O, some X, some X, none, none, none, some O, none, some X] O X = (some 3, -1) := rfl

theorem mmv_1321 : minimaxL 5 [some O, some X, some X, none, none, none, some O, none, none] X O = (some 8, -1) := by
  rw [minimaxL_succ 4 [some O, some X, some X, none, none, none, some O, none, none] X O [3, 4, 5, 7, 8] rfl rfl (List.cons_ne_nil _ _)]
  show pickBest [(3, (minimaxL 4 [some O, some X, some X, some X, none, none, some O, none, none] O X).2), (4, (minimaxL 4 [some O, some X, some X, none, some X, none, some O, none, none] O X).2), (5, (minimaxL 4 [some O, some X, some X, none, none, some X, some O, none, none] O X).2), (7, (minimaxL 4 [some O, some X, some X, none, none, none, some O, some X, none] O X).2), (8, (minimaxL 4 [some O, some X, some X, none, none, none, some O, none, some X] O X).2)] X = (some 8, -1)
  rw [mmv_1322, mmv_1336, mmv_1337, mmv_1338, mmv_1339]
  rfl

theorem mmv_1343 : minimaxL 2 [some O, some X, some X, some X, some O, some X, none, some O, none] O X = (some 8, -1) := rfl

theorem mmv_1344 : minimaxL 2 [some O, some X, some X, some X, some O, none, some X, some O, none] O X = (some 8, -1) := rfl

theorem mmv_1345 : minimaxL 2 [some O, some X, some X, some X, some O, none, none, some O, some X] O X = (some 5, 0) := by
  rw [minimaxL_succ 1 [some O, some X, some X, some X, some O, none, none, some O, some X] O X [5, 6] rfl rfl (List.cons_ne_nil _ _)]
  show pickBest [(5, (minimaxL 1 [some O, some X, some X, some X, some O, some O, none, some O, some X] X O).2), (6, (minimaxL 1 [some O, some X, some X, some X, some O, none, some O, some O, some X] X O).2)] O = (some 5, 0)
  rw [mmv_1259, mmv_1327]
  rfl

theorem mmv_1342 : minimaxL 3 [some O, some X, some X, some X, some O, none, none, some O, none] X O = (some 8, 0) := by
  rw [minimaxL_succ 2 [some O, some X, some X, some X, some O, none, none, some O, none] X O [5, 6, 8] rfl rfl (List.cons_ne_nil _ _)]
  show pickBest [(5, (minimaxL 2 [some O, some X, some X, some X, some O, some X, none, some O, none] O X).2), (6, (minimaxL 2 [some O, some X, some X, some X, some O, none, some X, some O, none] O X).2), (8, (minimaxL 2 [some O, some X, some X, some X, some O, none, none, some O, some X] O X).2)] X = (some 8, 0)
  rw [mmv_1343, mmv_1344, mmv_1345]
  rfl

theorem mmv_1347 : minimaxL 2 [some O, some X, some X, some X, some X, none, none, some O, some O] O X = (some 6, -1) := rfl

theorem mmv_1348 : minimaxL 2 [some O, some X, some X, some X, none, some X, none, some O, some O] O X = (some 4, -1) := rfl

theorem mmv_1349 : minimaxL 2 [some O, some X, some X, some X, none, none, some X, some O, some O] O X = (some 4, -1) := rfl

theorem mmv_1346 : minimaxL 3 [some O, some X, some X, some X, none, none, none, some O, some O] X O = (some 6, -1) := by
  rw [minimaxL_succ 2 [some O, some X, some X, some X, none, none, none, some O, some O] X O [4, 5, 6] rfl rfl (List.cons_ne_nil _ _)]
  show pickBest [(4, (minimaxL 2 [some O, some X, some X, some X, some X, none, none, some O, some O] O X).2), (5, (minimaxL 2 [some O, some X, some X, some X, none, some X, none, some O, some O] O X).2), (6, (minimaxL 2 [some O, some X, some X, some X, none, none, some X, some O, some O] O X).2)] X = (some 6, -1)
  rw [mmv_1347, mmv_1348, mmv_1349]
  rfl

theorem mmv_1341 : minimaxL 4 [some O, some X, some X, some X, none, none, none, some O, none] O X = (some 8, -1) := by
  rw [minimaxL_succ 3 [some O, some X, some X, some X, none, none, none, some O, none] O X [4, 5, 6, 8] rfl rfl (List.cons_ne_nil _ _)]
  show pickBest [(4, (minimaxL 3 [some O, some X, some X, some X, some O, none, none, some O, none] X O).2), (5, (minimaxL 3 [some O, some X, some X, some X, none, some O, none, some O, none] X O).2), (6, (minimaxL 3 [some O, some X, some X, some X, none, none, some O, some O, none] X O).2), (8, (minimaxL 3 [some O, some X, some X, some X, none, none, none, some O, some O] X O).2)] O = (some 8, -1)
  rw [mmv_1342, mmv_1280, mmv_1328, mmv_1346]
  rfl

theorem mmv_1351 : minimaxL 3 [some O, some X, some X, some O, some X, none, none, some O, none] X O = (some 6, 1) := rfl

theorem mmv_1353 : minimaxL 2 [some O, some X, some X, none, some X, some X, some O, some O, none] O X = (some 3, -1) := rfl

theorem mmv_1354 : minimaxL 2 [some O, some X, some X, none, some X, none, some O, some O, some X] O X = (some 3, -1) := rfl

theorem mmv_1352 : minimaxL 3 [some O, some X, some X, none, some X, none, some O, some O, none] X O = (some 8, -1) := by
  rw [minimaxL_succ 2 [some O, some X, some X, none, some X, none, some O, some O, none] X O [3, 5, 8] rfl rfl (List.cons_ne_nil _ _)]
  show pickBest [(3, (minimaxL 2 [some O, some X, some X, some X, some X, none, some O, some O, none] O X).2), (5, (minimaxL 2 [some O, some X, some X, none, some X, some X, some O, some O, none] O X).2), (8, (minimaxL 2 [some O, some X, some X, none, some X, none, some O, some O, some X] O X).2)] X = (some 8, -1)
  rw [mmv_1329, mmv_1353, mmv_1354]
  rfl

theorem mmv_1355 : minimaxL 3 [some O, some X, some X, none, some X, none, none, some O, some O] X O = (some 6, 1) := rfl

theorem mmv_1350 : minimaxL 4 [some O, some X, some X, none, some X, none, none, some O, none] O X = (some 6, -1) := by
  rw [minimaxL_succ 3 [some O, some X, some X, none, some X, none, none, some O, none] O X [3, 5, 6, 8] rfl rfl (List.cons_ne_nil _ _)]
  show pickBest [(3, (minimaxL 3 [some O, some X, some X, some O, some X, none, none, some O, none] X O).2), (5, (minimaxL 3 [some O, some X, some X, none, some X, some O, none, some O, none] X O).2), (6, (minimaxL 3 [some O, some X, some X, none, some X, none, some O, some O, none] X O).2), (8, (minimaxL 3 [some O, some X, some X, none, some X, none, none, some O, some O] X O).2)] O = (some 6, -1)
  rw [mmv_1351, mmv_1294, mmv_1352, mmv_1355]
  rfl

theorem mmv_1357 : minimaxL 3 [some O, some X, some X, some O, none, some X, none, some O, none] X O = (some 8, 1) := rfl

theorem mmv_1358 : minimaxL 3 [some O, some X, some X, none, some O, some X, none, some O, none] X O = (some 8, 1) := rfl

theorem mmv_1359 : minimaxL 3 [some O, some X, some X, none, none, some X, some O, some O, none] X O = (some 8, 1) := rfl

theorem mmv_1361 : minimaxL 2 [some O, some X, some X, none, some X, some X, none, some O, some O] O X = (some 6, -1) := rfl

theorem mmv_1362 : minimaxL 2 [some O, some X, some X, none, none, some X, some X, some O, some O] O X = (some 4, -1) := rfl

theorem mmv_1360 : minimaxL 3 [some O, some X, some X, none, none, some X, none, some O, some O] X O = (some 6, -1) := by
  rw [minimaxL_succ 2 [some O, some X, some X, none, none, some X, none, some O, some O] X O [3, 4, 6] rfl rfl (List.cons_ne_nil _ _)]
  show pickBest [(3, (minimaxL 2 [some O, some X, some X, some X, none, some X, none, some O, some O] O X).2), (4, (minimaxL 2 [some O, some X, some X, none, some X, some X, none, some O, some O] O X).2), (6, (minimaxL 2 [some O, some X, some X, none, none, some X, some X, some O, some O] O X).2)] X = (some 6, -1)
  rw [mmv_1348, mmv_1361, mmv_1362]
  rfl

theorem mmv_1356 : minimaxL 4 [some O, some X, some X, none, none, some X, none, some O, none] O X = (some 8, -1) := by
  rw [minimaxL_succ 3 [some O, some X, some X, none, none, some X, none, some O, none] O X [3, 4, 6, 8] rfl rfl (List.cons_ne_nil _ _)]
  show pickBest [(3, (minimaxL 3 [some O, some X, some X, some O, none, some X, none, some O, none] X O).2), (4, (minimaxL 3 [some O, some X, some X, none, some O, some X, none, some O, none] X O).2), (6, (minimaxL 3 [some O, some X, some X, none, none, some X, some O, some O, none] X O).2), (8, (minimaxL 3 [some O, some X, some X, none, none, some X, none, some O, some O] X O).2)] O = (some 8, -1)
  rw [mmv_1357, mmv_1358, mmv_1359, mmv_1360]
  rfl

theorem mmv_1365 : minimaxL 2 [some O, some X, some X, none, some O, some X, some X, some O, none] O X = (some 8, -1) := rfl

theorem mmv_1367 : minimaxL 1 [some O, some X, some X, some O, some O, none, some X, some O, some X] X O = (some 5, 1) := rfl

theorem mmv_1366 : minimaxL 2 [some O, some X, some X, none, some O, none, some X, some O, some X] O X = (some 5, 0) := by
  rw [minimaxL_succ 1 [some O, some X, some X, none, some O, none, some X, some O, some X] O X [3, 5] rfl rfl (List.cons_ne_nil _ _)]
  show pickBest [(3, (minimaxL 1 [some O, some X, some X, some O, some O, none, some X, some O, some X] X O).2), (5, (minimaxL 1 [some O, some X, some X, none, some O, some O, some X, some O, some X] X O).2)] O = (some 5, 0)
  rw [mmv_1367, mmv_1320]
  rfl

theorem mmv_1364 : minimaxL 3 [some O, some X, some X, none, some O, none, some X, some O, none] X O = (some 8, 0) := by
  rw [minimaxL_succ 2 [some O, some X, some X, none, some O, none, some X, some O, none] X O [3, 5, 8] rfl rfl (List.cons_ne_nil _ _)]
  show pickBest [(3, (minimaxL 2 [some O, some X, some X, some X, some O, none, some X, some O, none] O X).2), (5, (minimaxL 2 [some O, some X, some X, none, some O, some X, some X, some O, none] O X).2), (8, (minimaxL 2 [some O, some X, some X, none, some O, none, some X, some O, some X] O X).2)] X = (some 8, 0)
  rw [mmv_1344, mmv_1365, mmv_1366]
  rfl

theorem mmv_1368 : minimaxL 3 [some O, some X, some X, none, none, none, some X, some O, some O] X O = (some 4, 1) := rfl

theorem mmv_1363 : minimaxL 4 [some O, some X, some X, none, none, none, some X, some O, none] O X = (some 4, 0) := by
  rw [minimaxL_succ 3 [some O, some X, some X, none, none, none, some X, some O, none] O X [3, 4, 5, 8] rfl rfl (List.cons_ne_nil _ _)]
  show pickBest [(3, (minimaxL 3 [some O, some X, some X, some O, none, none, some X, some O, none] X O).2), (4, (minimaxL 3 [some O, some X, some X, none, some O, none, some X, some O, none] X O).2), (5, (minimaxL 3 [some O, some X, some X, none, none, some O, some X, some O, none] X O).2), (8, (minimaxL 3 [some O, some X, some X, none, none, none, some X, some O, some O] X O).2)] O = (some 4, 0)
  rw [mmv_1244, mmv_1364, mmv_1299, mmv_1368]
  rfl

theorem mmv_1370 : minimaxL 3 [some O, some X, some X, some O, none, none, none, some O, some X] X O = (some 5, 1) := rfl

theorem mmv_1371 : minimaxL 3 [some O, some X, some X, none, none, none, some O, some O, some X] X O = (some 5, 1) := rfl

theorem mmv_1369 : minimaxL 4 [some O, some X, some X, none, none, none, none, some O, some X] O X = (some 5, 0) := by
  rw [minimaxL_succ 3 [some O, some X, some X, none, none, none, none, some O, some X] O X [3, 4, 5, 6] rfl rfl (List.cons_ne_nil _ _)]
  show pickBest [(3, (minimaxL 3 [some O, some X, some X, some O, none, none, none, some O, some X] X O).2), (4, (minimaxL 3 [some O, some X, some X, none, some O, none, none, some O, some X] X O).2), (5, (minimaxL 3 [some O, some X, some X, none, none, some O, none, some O, some X] X O).2), (6, (minimaxL 3 [some O, some X, some X, none, none, none, some O, some O, some X] X O).2)] O = (some 5, 0)
  rw [mmv_1370, mmv_1264, mmv_1314, mmv_1371]
  rfl

theorem mmv_1340 : minimaxL 5 [some O, some X, some X, none, none, none, none, some O, none] X O = (some 8, 0) := by
  rw [minimaxL_succ 4 [some O, some X, some X, none, none, none, none, some O, none] X O [3, 4, 5, 6, 8] rfl rfl (List.cons_ne_nil _ _)]
  show pickBest [(3, (minimaxL 4 [some O, some X, some X, some X, none, none, none, some O, none] O X).2), (4, (minimaxL 4 [some O, some X, some X, none, some X, none, none, some O, none] O X).2), (5, (minimaxL 4 [some O, some X, some X, none, none, some X, none, some O, none] O X).2), (6, (minimaxL 4 [some O, some X, some X, none, none, none, some X, some O, none] O X).2), (8, (minimaxL 4 [some O, some X, some X, none, none, none, none, some O, some X] O X).2)] X = (some 8, 0)
  rw [mmv_1341, mmv_1350, mmv_1356, mmv_1363, mmv_1369]
  rfl

theorem mmv_1373 : minimaxL 4 [some O, some X, some X, some X, none, none, none, none, some O] O X = (some 4, -1) := rfl

theorem mmv_1375 : minimaxL 3 [some O, some X, some X, some O, some X, none, none, none, some O] X O = (some 7, 1) := rfl

theorem mmv_1376 : minimaxL 3 [some O, some X, some X, none, some X, none, some O, none, some O] X O = (some 7, 1) := rfl

theorem mmv_1374 : minimaxL 4 [some O, some X, some X, none, some X, none, none, none, some O] O X = (some 3, 1) := by
  rw [minimaxL_succ 3 [some O, some X, some X, none, some X, none, none, none, some O] O X [3, 5, 6, 7] rfl rfl (List.cons_ne_nil _ _)]
  show pickBest [(3, (minimaxL 3 [some O, some X, some X, some O, some X, none, none, none, some O] X O).2), (5, (minimaxL 3 [some O, some X, some X, none, some X, some O, none, none, some O] X O).2), (6, (minimaxL 3 [some O, some X, some X, none, some X, none, some O, none, some O] X O).2), (7, (minimaxL 3 [some O, some X, some X, none, some X, none, none, some O, some O] X O).2)] O = (some 3, 1)
  rw [mmv_1375, mmv_1295, mmv_1376, mmv_1355]
  rfl

theorem mmv_1377 : minimaxL 4 [some O, some X, some X, none, none, some X, none, none, some O] O X = (some 4, -1) := rfl

theorem mmv_1378 : minimaxL 4 [some O, some X, some X, none, none, none, some X, none, some O] O X = (some 4, -1) := rfl

theorem mmv_1379 : minimaxL 4 [some O, some X, some X, none, none, none, none, some X, some O] O X = (some 4, -1) := rfl

theorem mmv_1372 : minimaxL 5 [some O, some X, some X, none, none, none, none, none, some O] X O = (some 4, 1) := by
  rw [minimaxL_succ 4 [some O, some X, some X, none, none, none, none, none, some O] X O [3, 4, 5, 6, 7] rfl rfl (List.cons_ne_nil _ _)]
  show pickBest [(3, (minimaxL 4 [some O, some X, some X, some X, none, none, none, none, some O] O X).2), (4, (minimaxL 4 [some O, some X, some X, none, some X, none, none, none, some O] O X).2), (5, (minimaxL 4 [some O, some X, some X, none, none, some X, none, none, some O] O X).2), (6, (minimaxL 4 [some O, some X, some X, none, none, none, some X, none, some O] O X).2), (7, (minimaxL 4 [some O, some X, some X, none, none, none, none, some X, some O] O X).2)] X = (some 4, 1)
  rw [mmv_1373, mmv_1374, mmv_1377, mmv_1378, mmv_1379]
  rfl

theorem mmv_1234 : minimaxL 6 [some O, some X, some X, none, none, none, none, none, none] O X = (some 3, -1) := by
  rw [minimaxL_succ 5 [some O, some X, some X, none, none, none, none, none, none] O X [3, 4, 5, 6, 7, 8] rfl rfl (List.cons_ne_nil _ _)]
  show pickBest [(3, (minimaxL 5 [some O, some X, some X, some O, none, none, none, none, none] X O).2), (4, (minimaxL 5 [some O, some X, some X, none, some O, none, none, none, none] X O).2), (5, (minimaxL 5 [some O, some X, some X, none, none, some O, none, none, none] X O).2), (6, (minimaxL 5 [some O, some X, some X, none, none, none, some O, none, none] X O).2), (7, (minimaxL 5 [some O, some X, some X, none, none, none, none, some O, none] X O).2), (8, (minimaxL 5 [some O, some X, some X, none, none, none, none, none, some O] X O).2)] O = (some 3, -1)
  rw [mmv_1235, mmv_1248, mmv_1265, mmv_1321, mmv_1340, mmv_1372]
  rfl

theorem mmv_1383 : minimaxL 3 [some O, some X, some O, some X, some X, some O, none, none, none] X O = (some 7, 1) := rfl

theorem mmv_1384 : minimaxL 3 [some O, some X, some O, some X, some X, none, some O, none, none] X O = (some 7, 1) := rfl

theorem mmv_1385 : minimaxL 3 [some O, some X, some O, some X, some X, none, none, some O, none] X O = (some 5, 1) := rfl

theorem mmv_1386 : minimaxL 3 [some O, some X, some O, some X, some X, none, none, none, some O] X O = (some 7, 1) := rfl

theorem mmv_1382 : minimaxL 4 [some O, some X, some O, some X, some X, none, none, none, none] O X = (some 5, 1) := by
  rw [minimaxL_succ 3 [some O, some X, some O, some X, some X, none, none, none, none] O X [5, 6, 7, 8] rfl rfl (List.cons_ne_nil _ _)]
  show pickBest [(5, (minimaxL 3 [some O, some X, some O, some X, some X, some O, none, none, none] X O).2), (6, (minimaxL 3 [some O, some X, some O, some X, some X, none, some O, none, none] X O).2), (7, (minimaxL 3 [some O, some X, some O, some X, some X, none, none, some O, none] X O).2), (8, (minimaxL 3 [some O, some X, some O, some X, some X, none, none, none, some O] X O).2)] O = (some 5, 1)
  rw [mmv_1383, mmv_1384, mmv_1385, mmv_1386]
  rfl

theorem mmv_1389 : minimaxL 2 [some O, some X, some O, some X, some O, some X, some X, none, none] O X = (some 8, -1) := rfl

theorem mmv_1390 : minimaxL 2 [some O, some X, some O, some X, some O, some X, none, some X, none] O X = (some 8, -1) := rfl

theorem mmv_1391 : minimaxL 2 [some O, some X, some O, some X, some O, some X, none, none, some X] O X = (some 6, -1) := rfl

theorem mmv_1388 : minimaxL 3 [some O, some X, some O, some X, some O, some X, none, none, none] X O = (some 8, -1) := by
  rw [minimaxL_succ 2 [some O, some X, some O, some X, some O, some X, none, none, none] X O [6, 7, 8] rfl rfl (List.cons_ne_nil _ _)]
  show pickBest [(6, (minimaxL 2 [some O, some X, some O, some X, some O, some X, some X, none, none] O X).2), (7, (minimaxL 2 [some O, some X, some O, some X, some O, some X, none, some X, none] O X).2), (8, (minimaxL 2 [some O, some X, some O, some X, some O, some X, none, none, some X] O X).2)] X = (some 8, -1)
  rw [mmv_1389, mmv_1390, mmv_1391]
  rfl

theorem mmv_1392 : minimaxL 3 [some O, some X, some O, some X, none, some X, some O, none, none] X O = (some 4, 1) := rfl

theorem mmv_1393 : minimaxL 3 [some O, some X, some O, some X, none, some X, none, some O, none] X O = (some 4, 1) := rfl

theorem mmv_1394 : minimaxL 3 [some O, some X, some O, some X, none, some X, none, none, some O] X O = (some 4, 1) := rfl

theorem mmv_1387 : minimaxL 4 [some O, some X, some O, some X, none, some X, none, none, none] O X = (some 4, -1) := by
  rw [minimaxL_succ 3 [some O, some X, some O, some X, none, some X, none, none, none] O X [4, 6, 7, 8] rfl rfl (List.cons_ne_nil _ _)]
  show pickBest [(4, (minimaxL 3 [some O, some X, some O, some X, some O, some X, none, none, none] X O).2), (6, (minimaxL 3 [some O, some X, some O, some X, none, some X, some O, none, none] X O).2), (7, (minimaxL 3 [some O, some X, some O, some X, none, some X, none, some O, none] X O).2), (8, (minimaxL 3 [some O, some X, some O, some X, none, some X, none, none, some O] X O).2)] O = (some 4, -1)
  rw [mmv_1388, mmv_1392, mmv_1393, mmv_1394]
  rfl

theorem mmv_1397 : minimaxL 2 [some O, some X, some O, some X, some O, none, some X, some X, none] O X = (some 8, -1) := rfl

theorem mmv_1399 : minimaxL 1 [some O, some X, some O, some X, some O, some O, some X, none, some X] X O = (some 7, 1) := rfl

theorem mmv_1401 : minimaxL 0 [some O, some X, some O, some X, some O, some X, some X, some O, some X] O X = (none, 0) := rfl

theorem mmv_1400 : minimaxL 1 [some O, some X, some O, some X, some O, none, some X, some O, some X] X O = (some 5, 0) := by
  rw [minimaxL_succ 0 [some O, some X, some O, some X, some O, none, some X, some O, some X] X O [5] rfl rfl (List.cons_ne_nil _ _)]
  show pickBest [(5, (minimaxL 0 [some O, some X, some O, some X, some O, some X, some X, some O, some X] O X).2)] X = (some 5, 0)
  rw [mmv_1401]
  rfl

theorem mmv_1398 : minimaxL 2 [some O, some X, some O, some X, some O, none, some X, none, some X] O X = (some 7, 0) := by
  rw [minimaxL_succ 1 [some O, some X, some O, some X, some O, none, some X, none, some X] O X [5, 7] rfl rfl (List.cons_ne_nil _ _)]
  show pickBest [(5, (minimaxL 1 [some O, some X, some O, some X, some O, some O, some X, none, some X] X O).2), (7, (minimaxL 1 [some O, some X, some O, some X, some O, none, some X, some O, some X] X O).2)] O = (some 7, 0)
  rw [mmv_1399, mmv_1400]
  rfl

theorem mmv_1396 : minimaxL 3 [some O, some X, some O, some X, some O, none, some X, none, none] X O = (some 8, 0) := by
  rw [minimaxL_succ 2 [some O, some X, some O, some X, some O, none, some X, none, none] X O [5, 7, 8] rfl rfl (List.cons_ne_nil _ _)]
  show pickBest [(5, (minimaxL 2 [some O, some X, some O, some X, some O, some X, some X, none, none] O X).2), (7, (minimaxL 2 [some O, some X, some O, some X, some O, none, some X, some X, none] O X).2), (8, (minimaxL 2 [some O, some X, some O, some X, some O, none, some X, none, some X] O X).2)] X = (some 8, 0)
  rw [mmv_1389, mmv_1397, mmv_1398]
  rfl

theorem mmv_1403 : minimaxL 2 [some O, some X, some O, some X, some X, some O, some X, none, none] O X = (some 8, -1) := rfl

theorem mmv_1404 : minimaxL 2 [some O, some X, some O, some X, none, some O, some X, some X, none] O X = (some 8, -1) := rfl

theorem mmv_1407 : minimaxL 0 [some O, some X, some O, some X, some X, some O, some X, some O, some X] O X = (none, 0) := rfl

theorem mmv_1406 : minimaxL 1 [some O, some X, some O, some X, none, some O, some X, some O, some X] X O = (some 4, 0) := by
  rw [minimaxL_succ 0 [some O, some X, some O, some X, none, some O, some X, some O, some X] X O [4] rfl rfl (List.cons_ne_nil _ _)]
  show pickBest [(4, (minimaxL 0 [some O, some X, some O, some X, some X, some O, some X, some O, some X] O X).2)] X = (some 4, 0)
  rw [mmv_1407]
  rfl

theorem mmv_1405 : minimaxL 2 [some O, some X, some O, some X, none, some O, some X, none, some X] O X = (some 7, 0) := by
  rw [minimaxL_succ 1 [some O, some X, some O, some X, none, some O, some X, none, some X] O X [4, 7] rfl rfl (List.cons_ne_nil _ _)]
  show pickBest [(4, (minimaxL 1 [some O, some X, some O, some X, some O, some O, some X, none, some X] X O).2), (7, (minimaxL 1 [some O, some X, some O, some X, none, some O, some X, some O, some X] X O).2)] O = (some 7, 0)
  rw [mmv_1399, mmv_1406]
  rfl

theorem mmv_1402 : minimaxL 3 [some O, some X, some O, some X, none, some O, some X, none, none] X O = (some 8, 0) := by
  rw [minimaxL_succ 2 [some O, some X, some O, some X, none, some O, some X, none, none] X O [4, 7, 8] rfl rfl (List.cons_ne_nil _ _)]
  show pickBest [(4, (minimaxL 2 [some O, some X, some O, some X, some X, some O, some X, none, none] O X).2), (7, (minimaxL 2 [some O, some X, some O, some X, none, some O, some X, some X, none] O X).2), (8, (minimaxL 2 [some O, some X, some O, some X, none, some O, some X, none, some X] O X).2)] X = (some 8, 0)
  rw [mmv_1403, mmv_1404, mmv_1405]
  rfl

theorem mmv_1410 : minimaxL 1 [some O, some X, some O, some X, some X, some O, some X, some O, none] X O = (some 8, 0) := by
  rw [minimaxL_succ 0 [some O, some X, some O, some X, some X, some O, some X, some O, none] X O [8] rfl rfl (List.cons_ne_nil _ _)]
  show pickBest [(8, (minimaxL 0 [some O, some X, some O, some X, some X, some O, some X, some O, some X] O X).2)] X = (some 8, 0)
  rw [mmv_1407]
  rfl

theorem mmv_1411 : minimaxL 1 [some O, some X, some O, some X, some X, none, some X, some O, some O] X O = (some 5, 1) := rfl

theorem mmv_1409 : minimaxL 2 [some O, some X, some O, some X, some X, none, some X, some O, none] O X = (some 5, 0) := by
  rw [minimaxL_succ 1 [some O, some X, some O, some X, some X, none, some X, some O, none] O X [5, 8] rfl rfl (List.cons_ne_nil _ _)]
  show pickBest [(5, (minimaxL 1 [some O, some X, some O, some X, some X, some O, some X, some O, none] X O).2), (8, (minimaxL 1 [some O, some X, some O, some X, some X, none, some X, some O, some O] X O).2)] O = (some 5, 0)
  rw [mmv_1410, mmv_1411]
  rfl

theorem mmv_1413 : minimaxL 1 [some O, some X, some O, some X, some O, some X, some X, some O, none] X O = (some 8, 0) := by
  rw [minimaxL_succ 0 [some O, some X, some O, some X, some O, some X, some X, some O, none] X O [8] rfl rfl (List.cons_ne_nil _ _)]
  show pickBest [(8, (minimaxL 0 [some O, some X, some O, some X, some O, some X, some X, some O, some X] O X).2)] X = (some 8, 0)
  rw [mmv_1401]
  rfl

theorem mmv_1414 : minimaxL 1 [some O, some X, some O, some X, none, some X, some X, some O, some O] X O = (some 4, 1) := rfl

theorem mmv_1412 : minimaxL 2 [some O, some X, some O, some X, none, some X, some X, some O, none] O X = (some 4, 0) := by
  rw [minimaxL_succ 1 [some O, some X, some O, some X, none, some X, some X, some O, none] O X [4, 8] rfl rfl (List.cons_ne_nil _ _)]
  show pickBest [(4, (minimaxL 1 [some O, some X, some O, some X, some O, some X, some X, some O, none] X O).2), (8, (minimaxL 1 [some O, some X, some O, some X, none, some X, some X, some O, some O] X O).2)] O = (some 4, 0)
  rw [mmv_1413, mmv_1414]
  rfl

theorem mmv_1415 : minimaxL 2 [some O, some X, some O, some X, none, none, some X, some O, some X] O X = (some 4, 0) := by
  rw [minimaxL_succ 1 [some O, some X, some O, some X, none, none, some X, some O, some X] O X [4, 5] rfl rfl (List.cons_ne_nil _ _)]
  show pickBest [(4, (minimaxL 1 [some O, some X, some O, some X, some O, none, some X, some O, some X] X O).2), (5, (minimaxL 1 [some O, some X, some O, some X, none, some O, some X, some O, some X] X O).2)] O = (some 4, 0)
  rw [mmv_1400, mmv_1406]
  rfl

theorem mmv_1408 : minimaxL 3 [some O, some X, some O, some X, none, none, some X, some O, none] X O = (some 8, 0) := by
  rw [minimaxL_succ 2 [some O, some X, some O, some X, none, none, some X, some O, none] X O [4, 5, 8] rfl rfl (List.cons_ne_nil _ _)]
  show pickBest [(4, (minimaxL 2 [some O, some X, some O, some X, some X, none, some X, some O, none] O X).2), (5, (minimaxL 2 [some O, some X, some O, some X, none, some X, some X, some O, none] O X).2), (8, (minimaxL 2 [some O, some X, some O, some X, none, none, some X, some O, some X] O X).2)] X = (some 8, 0)
  rw [mmv_1409, mmv_1412, mmv_1415]
  rfl

theorem mmv_1417 : minimaxL 2 [some O, some X, some O, some X, some X, none, some X, none, some O] O X = (some 5, -1) := rfl

theorem mmv_1418 : minimaxL 2 [some O, some X, some O, some X, none, some X, some X, none, some O] O X = (some 4, -1) := rfl

theorem mmv_1419 : minimaxL 2 [some O, some X, some O, some X, none, none, some X, some X, some O] O X = (some 4, -1) := rfl

theorem mmv_1416 : minimaxL 3 [some O, some X, some O, some X, none, none, some X, none, some O] X O = (some 7, -1) := by
  rw [minimaxL_succ 2 [some O, some X, some O, some X, none, none, some X, none, some O] X O [4, 5, 7] rfl rfl (List.cons_ne_nil _ _)]
  show pickBest [(4, (minimaxL 2 [some O, some X, some O, some X, some X, none, some X, none, some O] O X).2), (5, (minimaxL 2 [some O, some X, some O, some X, none, some X, some X, none, some O] O X).2), (7, (minimaxL 2 [some O, some X, some O, some X, none, none, some X, some X, some O] O X).2)] X = (some 7, -1)
  rw [mmv_1417, mmv_1418, mmv_1419]
  rfl

theorem mmv_1395 : minimaxL 4 [some O, some X, some O, some X, none, none, some X, none, none] O X = (some 8, -1) := by
  rw [minimaxL_succ 3 [some O, some X, some O, some X, none, none, some X, none, none] O X [4, 5, 7, 8] rfl rfl (List.cons_ne_nil _ _)]
  show pickBest [(4, (minimaxL 3 [some O, some X, some O, some X, some O, none, some X, none, none] X O).2), (5, (minimaxL 3 [some O, some X, some O, some X, none, some O, some X, none, none] X O).2), (7, (minimaxL 3 [some O, some X, some O, some X, none, none, some X, some O, none] X O).2), (8, (minimaxL 3 [some O, some X, some O, some X, none, none, some X, none, some O] X O).2)] O = (some 8, -1)
  rw [mmv_1396, mmv_1402, mmv_1408, mmv_1416]
  rfl

theorem mmv_1422 : minimaxL 2 [some O, some X, some O, some X, some O, none, none, some X, some X] O X = (some 6, -1) := rfl

theorem mmv_1421 : minimaxL 3 [some O, some X, some O, some X, some O, none, none, some X, none] X O = (some 8, -1) := by
  rw [minimaxL_succ 2 [some O, some X, some O, some X, some O, none, none, some X, none] X O [5, 6, 8] rfl rfl (List.cons_ne_nil _ _)]
  show pickBest [(5, (minimaxL 2 [some O, some X, some O, some X, some O, some X, none, some X, none] O X).2), (6, (minimaxL 2 [some O, some X, some O, some X, some O, none, some X, some X, none] O X).2), (8, (minimaxL 2 [some O, some X, some O, some X, some O, none, none, some X, some X] O X).2)] X = (some 8, -1)
  rw [mmv_1390, mmv_1397, mmv_1422]
  rfl

theorem mmv_1423 : minimaxL 3 [some O, some X, some O, some X, none, some O, none, some X, none] X O = (some 4, 1) := rfl

theorem mmv_1424 : minimaxL 3 [some O, some X, some O, some X, none, none, some O, some X, none] X O = (some 4, 1) := rfl

theorem mmv_1425 : minimaxL 3 [some O, some X, some O, some X, none, none, none, some X, some O] X O = (some 4, 1) := rfl

theorem mmv_1420 : minimaxL 4 [some O, some X, some O, some X, none, none, none, some X, none] O X = (some 4, -1) := by
  rw [minimaxL_succ 3 [some O, some X, some O, some X, none, none, none, some X, none] O X [4, 5, 6, 8] rfl rfl (List.cons_ne_nil _ _)]
  show pickBest [(4, (minimaxL 3 [some O, some X, some O, some X, some O, none, none, some X, none] X O).2), (5, (minimaxL 3 [some O, some X, some O, some X, none, some O, none, some X, none] X O).2), (6, (minimaxL 3 [some O, some X, some O, some X, none, none, some O, some X, none] X O).2), (8, (minimaxL 3 [some O, some X, some O, some X, none, none, none, some X, some O] X O).2)] O = (some 4, -1)
  rw [mmv_1421, mmv_1423, mmv_1424, mmv_1425]
  rfl

theorem mmv_1427 : minimaxL 3 [some O, some X, some O, some X, some O, none, none, none, some X] X O = (some 6, 0) := by
  rw [minimaxL_succ 2 [some O, some X, some O, some X, some O, none, none, none, some X] X O [5, 6, 7] rfl rfl (List.cons_ne_nil _ _)]
  show pickBest [(5, (minimaxL 2 [some O, some X, some O, some X, some O, some X, none, none, some X] O X).2), (6, (minimaxL 2 [some O, some X, some O, some X, some O, none, some X, none, some X] O X).2), (7, (minimaxL 2 [some O, some X, some O, some X, some O, none, none, some X, some X] O X).2)] X = (some 6, 0)
  rw [mmv_1391, mmv_1398, mmv_1422]
  rfl

theorem mmv_1430 : minimaxL 1 [some O, some X, some O, some X, some X, some O, some O, none, some X] X O = (some 7, 1) := rfl

theorem mmv_1431 : minimaxL 1 [some O, some X, some O, some X, some X, some O, none, some O, some X] X O = (some 6, 0) := by
  rw [minimaxL_succ 0 [some O, some X, some O, some X, some X, some O, none, some O, some X] X O [6] rfl rfl (List.cons_ne_nil _ _)]
  show pickBest [(6, (minimaxL 0 [some O, some X, some O, some X, some X, some O, some X, some O, some X] O X).2)] X = (some 6, 0)
  rw [mmv_1407]
  rfl

theorem mmv_1429 : minimaxL 2 [some O, some X, some O, some X, some X, some O, none, none, some X] O X = (some 7, 0) := by
  rw [minimaxL_succ 1 [some O, some X, some O, some X, some X, some O, none, none, some X] O X [6, 7] rfl rfl (List.cons_ne_nil _ _)]
  show pickBest [(6, (minimaxL 1 [some O, some X, some O, some X, some X, some O, some O, none, some X] X O).2), (7, (minimaxL 1 [some O, some X, some O, some X, some X, some O, none, some O, some X] X O).2)] O = (some 7, 0)
  rw [mmv_1430, mmv_1431]
  rfl

theorem mmv_1433 : minimaxL 1 [some O, some X, some O, some X, some O, some O, none, some X, some X] X O = (some 6, 1) := rfl

theorem mmv_1434 : minimaxL 1 [some O, some X, some O, some X, none, some O, some O, some X, some X] X O = (some 4, 1) := rfl

theorem mmv_1432 : minimaxL 2 [some O, some X, some O, some X, none, some O, none, some X, some X] O X = (some 4, 1) := by
  rw [minimaxL_succ 1 [some O, some X, some O, some X, none, some O, none, some X, some X] O X [4, 6] rfl rfl (List.cons_ne_nil _ _)]
  show pickBest [(4, (minimaxL 1 [some O, some X, some O, some X, some O, some O, none, some X, some X] X O).2), (6, (minimaxL 1 [some O, some X, some O, some X, none, some O, some O, some X, some X] X O).2)] O = (some 4, 1)
  rw [mmv_1433, mmv_1434]
  rfl

theorem mmv_1428 : minimaxL 3 [some O, some X, some O, some X, none, some O, none, none, some X] X O = (some 7, 1) := by
  rw [minimaxL_succ 2 [some O, some X, some O, some X, none, some O, none, none, some X] X O [4, 6, 7] rfl rfl (List.cons_ne_nil _ _)]
  show pickBest [(4, (minimaxL 2 [some O, some X, some O, some X, some X, some O, none, none, some X] O X).2), (6, (minimaxL 2 [some O, some X, some O, some X, none, some O, some X, none, some X] O X).2), (7, (minimaxL 2 [some O, some X, some O, some X, none, some O, none, some X, some X] O X).2)] X = (some 7, 1)
  rw [mmv_1429, mmv_1405, mmv_1432]
  rfl

theorem mmv_1437 : minimaxL 1 [some O, some X, some O, some X, some X, none, some O, some O, some X] X O = (some 5, 1) := rfl

theorem mmv_1436 : minimaxL 2 [some O, some X, some O, some X, some X, none, some O, none, some X] O X = (some 5, 1) := by
  rw [minimaxL_succ 1 [some O, some X, some O, some X, some X, none, some O, none, some X] O X [5, 7] rfl rfl (List.cons_ne_nil _ _)]
  show pickBest [(5, (minimaxL 1 [some O, some X, some O, some X, some X, some O, some O, none, some X] X O).2), (7, (minimaxL 1 [some O, some X, some O, some X, some X, none, some O, some O, some X] X O).2)] O = (some 5, 1)
  rw [mmv_1430, mmv_1437]
  rfl

theorem mmv_1438 : minimaxL 2 [some O, some X, some O, some X, none, some X, some O, none, some X] O X = (some 4, -1) := rfl

theorem mmv_1439 : minimaxL 2 [some O, some X, some O, some X, none, none, some O, some X, some X] O X = (some 4, -1) := rfl

theorem mmv_1435 : minimaxL 3 [some O, some X, some O, some X, none, none, some O, none, some X] X O = (some 4, 1) := by
  rw [minimaxL_succ 2 [some O, some X, some O, some X, none, none, some O, none, some X] X O [4, 5, 7] rfl rfl (List.cons_ne_nil _ _)]
  show pickBest [(4, (minimaxL 2 [some O, some X, some O, some X, some X, none, some O, none, some X] O X).2), (5, (minimaxL 2 [some O, some X, some O, some X, none, some X, some O, none, some X] O X).2), (7, (minimaxL 2 [some O, some X, some O, some X, none, none, some O, some X, some X] O X).2)] X = (some 4, 1)
  rw [mmv_1436, mmv_1438, mmv_1439]
  rfl

theorem mmv_1441 : minimaxL 2 [some O, some X, some O, some X, some X, none, none, some O, some X] O X = (some 5, 0) := by
  rw [minimaxL_succ 1 [some O, some X, some O, some X, some X, none, none, some O, some X] O X [5, 6] rfl rfl (List.cons_ne_nil _ _)]
  show pickBest [(5, (minimaxL 1 [some O, some X, some O, some X, some X, some O, none, some O, some X] X O).2), (6, (minimaxL 1 [some O, some X, some O, some X, some X, none, some O, some O, some X] X O).2)] O = (some 5, 0)
  rw [mmv_1431, mmv_1437]
  rfl

theorem mmv_1443 : minimaxL 1 [some O, some X, some O, some X, some O, some X, none, some O, some X] X O = (some 6, 0) := by
  rw [minimaxL_succ 0 [some O, some X, some O, some X, some O, some X, none, some O, some X] X O [6] rfl rfl (List.cons_ne_nil _ _)]
  show pickBest [(6, (minimaxL 0 [some O, some X, some O, some X, some O, some X, some X, some O, some X] O X).2)] X = (some 6, 0)
  rw [mmv_1401]
  rfl

theorem mmv_1444 : minimaxL 1 [some O, some X, some O, some X, none, some X, some O, some O, some X] X O = (some 4, 1) := rfl

theorem mmv_1442 : minimaxL 2 [some O, some X, some O, some X, none, some X, none, some O, some X] O X = (some 4, 0) := by
  rw [minimaxL_succ 1 [some O, some X, some O, some X, none, some X, none, some O, some X] O X [4, 6] rfl rfl (List.cons_ne_nil _ _)]
  show pickBest [(4, (minimaxL 1 [some O, some X, some O, some X, some O, some X, none, some O, some X] X O).2), (6, (minimaxL 1 [some O, some X, some O, some X, none, some X, some O, some O, some X] X O).2)] O = (some 4, 0)
  rw [mmv_1443, mmv_1444]
  rfl

theorem mmv_1440 : minimaxL 3 [some O, some X, some O, some X, none, none, none, some O, some X] X O = (some 6, 0) := by
  rw [minimaxL_succ 2 [some O, some X, some O, some X, none, none, none, some O, some X] X O [4, 5, 6] rfl rfl (List.cons_ne_nil _ _)]
  show pickBest [(4, (minimaxL 2 [some O, some X, some O, some X, some X, none, none, some O, some X] O X).2), (5, (minimaxL 2 [some O, some X, some O, some X, none, some X, none, some O, some X] O X).2), (6, (minimaxL 2 [some O, some X, some O, some X, none, none, some X, some O, some X] O X).2)] X = (some 6, 0)
  rw [mmv_1441, mmv_1442, mmv_1415]
  rfl

theorem mmv_1426 : minimaxL 4 [some O, some X, some O, some X, none, none, none, none, some X] O X = (some 4, 0) := by
  rw [minimaxL_succ 3 [some O, some X, some O, some X, none, none, none, none, some X] O X [4, 5, 6, 7] rfl rfl (List.cons_ne_nil _ _)]
  show pickBest [(4, (minimaxL 3 [some O, some X, some O, some X, some O, none, none, none, some X] X O).2), (5, (minimaxL 3 [some O, some X, some O, some X, none, some O, none, none, some X] X O).2), (6, (minimaxL 3 [some O, some X, some O, some X, none, none, some O, none, some X] X O).2), (7, (minimaxL 3 [some O, some X, some O, some X, none, none, none, some O, some X] X O).2)] O = (some 4, 0)
  rw [mmv_1427, mmv_1428, mmv_1435, mmv_1440]
  rfl

theorem mmv_1381 : minimaxL 5 [some O, some X, some O, some X, none, none, none, none, none] X O = (some 4, 1) := by
  rw [minimaxL_succ 4 [some O, some X, some O, some X, none, none, none, none, none] X O [4, 5, 6, 7, 8] rfl rfl (List.cons_ne_nil _ _)]
  show pickBest [(4, (minimaxL 4 [some O, some X, some O, some X, some X, none, none, none, none] O X).2), (5, (minimaxL 4 [some O, some X, some O, some X, none, some X, none, none, none] O X).2), (6, (minimaxL 4 [some O, some X, some O, some X, none, none, some X, none, none] O X).2), (7, (minimaxL 4 [some O, some X, some O, some X, none, none, none, some X, none] O X).2), (8, (minimaxL 4 [some O, some X, some O, some X, none, none, none, none, some X] O X).2)] X = (some 4, 1)
  rw [mmv_1382, mmv_1387, mmv_1395, mmv_1420, mmv_1426]
  rfl

theorem mmv_1446 : minimaxL 4 [some O, some X, none, some X, some O, some X, none, none, none] O X = (some 8, -1) := rfl

theorem mmv_1447 : minimaxL 4 [some O, some X, none, some X, some O, none, some X, none, none] O X = (some 8, -1) := rfl

theorem mmv_1448 : minimaxL 4 [some O, some X, none, some X, some O, none, none, some X, none] O X = (some 8, -1) := rfl

theorem mmv_1452 : minimaxL 1 [some O, some X, none, some X, some O, some O, some X, some O, some X] X O = (some 2, 0) := by
  rw [minimaxL_succ 0 [some O, some X, none, some X, some O, some O, some X, some O, some X] X O [2] rfl rfl (List.cons_ne_nil _ _)]
  show pickBest [(2, (minimaxL 0 [some O, some X, some X, some X, some O, some O, some X, some O, some X] O X).2)] X = (some 2, 0)
  rw [mmv_1260]
  rfl

theorem mmv_1451 : minimaxL 2 [some O, some X, none, some X, some O, some O, some X, none, some X] O X = (some 7, 0) := by
  rw [minimaxL_succ 1 [some O, some X, none, some X, some O, some O, some X, none, some X] O X [2, 7] rfl rfl (List.cons_ne_nil _ _)]
  show pickBest [(2, (minimaxL 1 [some O, some X, some O, some X, some O, some O, some X, none, some X] X O).2), (7, (minimaxL 1 [some O, some X, none, some X, some O, some O, some X, some O, some X] X O).2)] O = (some 7, 0)
  rw [mmv_1399, mmv_1452]
  rfl

theorem mmv_1454 : minimaxL 1 [some O, some X, none, some X, some O, some O, some O, some X, some X] X O = (some 2, 0) := by
  rw [minimaxL_succ 0 [some O, some X, none, some X, some O, some O, some O, some X, some X] X O [2] rfl rfl (List.cons_ne_nil _ _)]
  show pickBest [(2, (minimaxL 0 [some O, some X, some X, some X, some O, some O, some O, some X, some X] O X).2)] X = (some 2, 0)
  rw [mmv_1258]
  rfl

theorem mmv_1453 : minimaxL 2 [some O, some X, none, some X, some O, some O, none, some X, some X] O X = (some 6, 0) := by
  rw [minimaxL_succ 1 [some O, some X, none, some X, some O, some O, none, some X, some X] O X [2, 6] rfl rfl (List.cons_ne_nil _ _)]
  show pickBest [(2, (minimaxL 1 [some O, some X, some O, some X, some O, some O, none, some X, some X] X O).2), (6, (minimaxL 1 [some O, some X, none, some X, some O, some O, some O, some X, some X] X O).2)] O = (some 6, 0)
  rw [mmv_1433, mmv_1454]
  rfl

theorem mmv_1450 : minimaxL 3 [some O, some X, none, some X, some O, some O, none, none, some X] X O = (some 7, 0) := by
  rw [minimaxL_succ 2 [some O, some X, none, some X, some O, some O, none, none, some X] X O [2, 6, 7] rfl rfl (List.cons_ne_nil _ _)]
  show pickBest [(2, (minimaxL 2 [some O, some X, some X, some X, some O, some O, none, none, some X] O X).2), (6, (minimaxL 2 [some O, some X, none, some X, some O, some O, some X, none, some X] O X).2), (7, (minimaxL 2 [some O, some X, none, some X, some O, some O, none, some X, some X] O X).2)] X = (some 7, 0)
  rw [mmv_1256, mmv_1451, mmv_1453]
  rfl

theorem mmv_1456 : minimaxL 2 [some O, some X, none, some X, some O, some X, some O, none, some X] O X = (some 2, -1) := rfl

theorem mmv_1457 : minimaxL 2 [some O, some X, none, some X, some O, none, some O, some X, some X] O X = (some 2, -1) := rfl

theorem mmv_1455 : minimaxL 3 [some O, some X, none, some X, some O, none, some O, none, some X] X O = (some 2, 0) := by
  rw [minimaxL_succ 2 [some O, some X, none, some X, some O, none, some O, none, some X] X O [2, 5, 7] rfl rfl (List.cons_ne_nil _ _)]
  show pickBest [(2, (minimaxL 2 [some O, some X, some X, some X, some O, none, some O, none, some X] O X).2), (5, (minimaxL 2 [some O, some X, none, some X, some O, some X, some O, none, some X] O X).2), (7, (minimaxL 2 [some O, some X, none, some X, some O, none, some O, some X, some X] O X).2)] X = (some 2, 0)
  rw [mmv_1326, mmv_1456, mmv_1457]
  rfl

theorem mmv_1460 : minimaxL 1 [some O, some X, none, some X, some O, some X, some O, some O, some X] X O = (some 2, 1) := rfl

theorem mmv_1459 : minimaxL 2 [some O, some X, none, some X, some O, some X, none, some O, some X] O X = (some 2, 0) := by
  rw [minimaxL_succ 1 [some O, some X, none, some X, some O, some X, none, some O, some X] O X [2, 6] rfl rfl (List.cons_ne_nil _ _)]
  show pickBest [(2, (minimaxL 1 [some O, some X, some O, some X, some O, some X, none, some O, some X] X O).2), (6, (minimaxL 1 [some O, some X, none, some X, some O, some X, some O, some O, some X] X O).2)] O = (some 2, 0)
  rw [mmv_1443, mmv_1460]
  rfl

theorem mmv_1461 : minimaxL 2 [some O, some X, none, some X, some O, none, some X, some O, some X] O X = (some 2, 0) := by
  rw [minimaxL_succ 1 [some O, some X, none, some X, some O, none, some X, some O, some X] O X [2, 5] rfl rfl (List.cons_ne_nil _ _)]
  show pickBest [(2, (minimaxL 1 [some O, some X, some O, some X, some O, none, some X, some O, some X] X O).2), (5, (minimaxL 1 [some O, some X, none, some X, some O, some O, some X, some O, some X] X O).2)] O = (some 2, 0)
  rw [mmv_1400, mmv_1452]
  rfl

theorem mmv_1458 : minimaxL 3 [some O, some X, none, some X, some O, none, none, some O, some X] X O = (some 6, 0) := by
  rw [minimaxL_succ 2 [some O, some X, none, some X, some O, none, none, some O, some X] X O [2, 5, 6] rfl rfl (List.cons_ne_nil _ _)]
  show pickBest [(2, (minimaxL 2 [some O, some X, some X, some X, some O, none, none, some O, some X] O X).2), (5, (minimaxL 2 [some O, some X, none, some X, some O, some X, none, some O, some X] O X).2), (6, (minimaxL 2 [some O, some X, none, some X, some O, none, some X, some O, some X] O X).2)] X = (some 6, 0)
  rw [mmv_1345, mmv_1459, mmv_1461]
  rfl

theorem mmv_1449 : minimaxL 4 [some O, some X, none, some X, some O, none, none, none, some X] O X = (some 2, 0) := by
  rw [minimaxL_succ 3 [some O, some X, none, some X, some O, none, none, none, some X] O X [2, 5, 6, 7] rfl rfl (List.cons_ne_nil _ _)]
  show pickBest [(2, (minimaxL 3 [some O, some X, some O, some X, some O, none, none, none, some X] X O).2), (5, (minimaxL 3 [some O, some X, none, some X, some O, some O, none, none, some X] X O).2), (6, (minimaxL 3 [some O, some X, none, some X, some O, none, some O, none, some X] X O).2), (7, (minimaxL 3 [some O, some X, none, some X, some O, none, none, some O, some X] X O).2)] O = (some 2, 0)
  rw [mmv_1427, mmv_1450, mmv_1455, mmv_1458]
  rfl

theorem mmv_1445 : minimaxL 5 [some O, some X, none, some X, some O, none, none, none, none] X O = (some 8, 0) := by
  rw [minimaxL_succ 4 [some O, some X, none, some X, some O, none, none, none, none] X O [2, 5, 6, 7, 8] rfl rfl (List.cons_ne_nil _ _)]
  show pickBest [(2, (minimaxL 4 [some O, some X, some X, some X, some O, none, none, none, none] O X).2), (5, (minimaxL 4 [some O, some X, none, some X, some O, some X, none, none, none] O X).2), (6, (minimaxL 4 [some O, some X, none, some X, some O, none, some X, none, none] O X).2), (7, (minimaxL 4 [some O, some X, none, some X, some O, none, none, some X, none] O X).2), (8, (minimaxL 4 [some O, some X, none, some X, some O, none, none, none, some X] O X).2)] X = (some 8, 0)
  rw [mmv_1249, mmv_1446, mmv_1447, mmv_1448, mmv_1449]
  rfl

theorem mmv_1464 : minimaxL 3 [some O, some X, none, some X, some X, some O, some O, none, none] X O = (some 7, 1) := rfl

theorem mmv_1467 : minimaxL 1 [some O, some X, none, some X, some X, some O, some X, some O, some O] X O = (some 2, 1) := rfl

theorem mmv_1466 : minimaxL 2 [some O, some X, none, some X, some X, some O, some X, some O, none] O X = (some 2, 0) := by
  rw [minimaxL_succ 1 [some O, some X, none, some X, some X, some O, some X, some O, none] O X [2, 8] rfl rfl (List.cons_ne_nil _ _)]
  show pickBest [(2, (minimaxL 1 [some O, some X, some O, some X, some X, some O, some X, some O, none] X O).2), (8, (minimaxL 1 [some O, some X, none, some X, some X, some O, some X, some O, some O] X O).2)] O = (some 2, 0)
  rw [mmv_1410, mmv_1467]
  rfl

theorem mmv_1469 : minimaxL 1 [some O, some X, none, some X, some X, some O, some O, some O, some X] X O = (some 2, 0) := by
  rw [minimaxL_succ 0 [some O, some X, none, some X, some X, some O, some O, some O, some X] X O [2] rfl rfl (List.cons_ne_nil _ _)]
  show pickBest [(2, (minimaxL 0 [some O, some X, some X, some X, some X, some O, some O, some O, some X] O X).2)] X = (some 2, 0)
  rw [mmv_1273]
  rfl

theorem mmv_1468 : minimaxL 2 [some O, some X, none, some X, some X, some O, none, some O, some X] O X = (some 2, 0) := by
  rw [minimaxL_succ 1 [some O, some X, none, some X, some X, some O, none, some O, some X] O X [2, 6] rfl rfl (List.cons_ne_nil _ _)]
  show pickBest [(2, (minimaxL 1 [some O, some X, some O, some X, some X, some O, none, some O, some X] X O).2), (6, (minimaxL 1 [some O, some X, none, some X, some X, some O, some O, some O, some X] X O).2)] O = (some 2, 0)
  rw [mmv_1431, mmv_1469]
  rfl

theorem mmv_1465 : minimaxL 3 [some O, some X, none, some X, some X, some O, none, some O, none] X O = (some 8, 0) := by
  rw [minimaxL_succ 2 [some O, some X, none, some X, some X, some O, none, some O, none] X O [2, 6, 8] rfl rfl (List.cons_ne_nil _ _)]
  show pickBest [(2, (minimaxL 2 [some O, some X, some X, some X, some X, some O, none, some O, none] O X).2), (6, (minimaxL 2 [some O, some X, none, some X, some X, some O, some X, some O, none] O X).2), (8, (minimaxL 2 [some O, some X, none, some X, some X, some O, none, some O, some X] O X).2)] X = (some 8, 0)
  rw [mmv_1281, mmv_1466, mmv_1468]
  rfl

theorem mmv_1470 : minimaxL 3 [some O, some X, none, some X, some X, some O, none, none, some O] X O = (some 7, 1) := rfl

theorem mmv_1463 : minimaxL 4 [some O, some X, none, some X, some X, some O, none, none, none] O X = (some 7, 0) := by
  rw [minimaxL_succ 3 [some O, some X, none, some X, some X, some O, none, none, none] O X [2, 6, 7, 8] rfl rfl (List.cons_ne_nil _ _)]
  show pickBest [(2, (minimaxL 3 [some O, some X, some O, some X, some X, some O, none, none, none] X O).2), (6, (minimaxL 3 [some O, some X, none, some X, some X, some O, some O, none, none] X O).2), (7, (minimaxL 3 [some O, some X, none, some X, some X, some O, none, some O, none] X O).2), (8, (minimaxL 3 [some O, some X, none, some X, some X, some O, none, none, some O] X O).2)] O = (some 7, 0)
  rw [mmv_1383, mmv_1464, mmv_1465, mmv_1470]
  rfl

theorem mmv_1473 : minimaxL 2 [some O, some X, none, some X, some O, some O, some X, some X, none] O X = (some 8, -1) := rfl

theorem mmv_1472 : minimaxL 3 [some O, some X, none, some X, some O, some O, some X, none, none] X O = (some 8, 0) := by
  rw [minimaxL_succ 2 [some O, some X, none, some X, some O, some O, some X, none, none] X O [2, 7, 8] rfl rfl (List.cons_ne_nil _ _)]
  show pickBest [(2, (minimaxL 2 [some O, some X, some X, some X, some O, some O, some X, none, none] O X).2), (7, (minimaxL 2 [some O, some X, none, some X, some O, some O, some X, some X, none] O X).2), (8, (minimaxL 2 [some O, some X, none, some X, some O, some O, some X, none, some X] O X).2)] X = (some 8, 0)
  rw [mmv_1268, mmv_1473, mmv_1451]
  rfl

theorem mmv_1475 : minimaxL 2 [some O, some X, none, some X, none, some O, some X, some O, some X] O X = (some 2, 0) := by
  rw [minimaxL_succ 1 [some O, some X, none, some X, none, some O, some X, some O, some X] O X [2, 4] rfl rfl (List.cons_ne_nil _ _)]
  show pickBest [(2, (minimaxL 1 [some O, some X, some O, some X, none, some O, some X, some O, some X] X O).2), (4, (minimaxL 1 [some O, some X, none, some X, some O, some O, some X, some O, some X] X O).2)] O = (some 2, 0)
  rw [mmv_1406, mmv_1452]
  rfl

theorem mmv_1474 : minimaxL 3 [some O, some X, none, some X, none, some O, some X, some O, none] X O = (some 8, 0) := by
  rw [minimaxL_succ 2 [some O, some X, none, some X, none, some O, some X, some O, none] X O [2, 4, 8] rfl rfl (List.cons_ne_nil _ _)]
  show pickBest [(2, (minimaxL 2 [some O, some X, some X, some X, none, some O, some X, some O, none] O X).2), (4, (minimaxL 2 [some O, some X, none, some X, some X, some O, some X, some O, none] O X).2), (8, (minimaxL 2 [some O, some X, none, some X, none, some O, some X, some O, some X] O X).2)] X = (some 8, 0)
  rw [mmv_1283, mmv_1466, mmv_1475]
  rfl

theorem mmv_1477 : minimaxL 2 [some O, some X, none, some X, some X, some O, some X, none, some O] O X = (some 2, -1) := rfl

theorem mmv_1478 : minimaxL 2 [some O, some X, none, some X, none, some O, some X, some X, some O] O X = (some 4, -1) := rfl

theorem mmv_1476 : minimaxL 3 [some O, some X, none, some X, none, some O, some X, none, some O] X O = (some 7, -1) := by
  rw [minimaxL_succ 2 [some O, some X, none, some X, none, some O, some X, none, some O] X O [2, 4, 7] rfl rfl (List.cons_ne_nil _ _)]
  show pickBest [(2, (minimaxL 2 [some O, some X, some X, some X, none, some O, some X, none, some O] O X).2), (4, (minimaxL 2 [some O, some X, none, some X, some X, some O, some X, none, some O] O X).2), (7, (minimaxL 2 [some O, some X, none, some X, none, some O, some X, some X, some O] O X).2)] X = (some 7, -1)
  rw [mmv_1289, mmv_1477, mmv_1478]
  rfl

theorem mmv_1471 : minimaxL 4 [some O, some X, none, some X, none, some O, some X, none, none] O X = (some 8, -1) := by
  rw [minimaxL_succ 3 [some O, some X, none, some X, none, some O, some X, none, none] O X [2, 4, 7, 8] rfl rfl (List.cons_ne_nil _ _)]
  show pickBest [(2, (minimaxL 3 [some O, some X, some O, some X, none, some O, some X, none, none] X O).2), (4, (minimaxL 3 [some O, some X, none, some X, some O, some O, some X, none, none] X O).2), (7, (minimaxL 3 [some O, some X, none, some X, none, some O, some X, some O, none] X O).2), (8, (minimaxL 3 [some O, some X, none, some X, none, some O, some X, none, some O] X O).2)] O = (some 8, -1)
  rw [mmv_1402, mmv_1472, mmv_1474, mmv_1476]
  rfl

theorem mmv_1480 : minimaxL 3 [some O, some X, none, some X, some O, some O, none, some X, none] X O = (some 8, 0) := by
  rw [minimaxL_succ 2 [some O, some X, none, some X, some O, some O, none, some X, none] X O [2, 6, 8] rfl rfl (List.cons_ne_nil _ _)]
  show pickBest [(2, (minimaxL 2 [some O, some X, some X, some X, some O, some O, none, some X, none] O X).2), (6, (minimaxL 2 [some O, some X, none, some X, some O, some O, some X, some X, none] O X).2), (8, (minimaxL 2 [some O, some X, none, some X, some O, some O, none, some X, some X] O X).2)] X = (some 8, 0)
  rw [mmv_1269, mmv_1473, mmv_1453]
  rfl

theorem mmv_1481 : minimaxL 3 [some O, some X, none, some X, none, some O, some O, some X, none] X O = (some 4, 1) := rfl

theorem mmv_1482 : minimaxL 3 [some O, some X, none, some X, none, some O, none, some X, some O] X O = (some 4, 1) := rfl

theorem mmv_1479 : minimaxL 4 [some O, some X, none, some X, none, some O, none, some X, none] O X = (some 4, 0) := by
  rw [minimaxL_succ 3 [some O, some X, none, some X, none, some O, none, some X, none] O X [2, 4, 6, 8] rfl rfl (List.cons_ne_nil _ _)]
  show pickBest [(2, (minimaxL 3 [some O, some X, some O, some X, none, some O, none, some X, none] X O).2), (4, (minimaxL 3 [some O, some X, none, some X, some O, some O, none, some X, none] X O).2), (6, (minimaxL 3 [some O, some X, none, some X, none, some O, some O, some X, none] X O).2), (8, (minimaxL 3 [some O, some X, none, some X, none, some O, none, some X, some O] X O).2)] O = (some 4, 0)
  rw [mmv_1423, mmv_1480, mmv_1481, mmv_1482]
  rfl

theorem mmv_1485 : minimaxL 2 [some O, some X, none, some X, some X, some O, some O, none, some X] O X = (some 7, 0) := by
  rw [minimaxL_succ 1 [some O, some X, none, some X, some X, some O, some O, none, some X] O X [2, 7] rfl rfl (List.cons_ne_nil _ _)]
  show pickBest [(2, (minimaxL 1 [some O, some X, some O, some X, some X, some O, some O, none, some X] X O).2), (7, (minimaxL 1 [some O, some X, none, some X, some X, some O, some O, some O, some X] X O).2)] O = (some 7, 0)
  rw [mmv_1430, mmv_1469]
  rfl

theorem mmv_1486 : minimaxL 2 [some O, some X, none, some X, none, some O, some O, some X, some X] O X = (some 4, 0) := by
  rw [minimaxL_succ 1 [some O, some X, none, some X, none, some O, some O, some X, some X] O X [2, 4] rfl rfl (List.cons_ne_nil _ _)]
  show pickBest [(2, (minimaxL 1 [some O, some X, some O, some X, none, some O, some O, some X, some X] X O).2), (4, (minimaxL 1 [some O, some X, none, some X, some O, some O, some O, some X, some X] X O).2)] O = (some 4, 0)
  rw [mmv_1434, mmv_1454]
  rfl

theorem mmv_1484 : minimaxL 3 [some O, some X, none, some X, none, some O, some O, none, some X] X O = (some 7, 0) := by
  rw [minimaxL_succ 2 [some O, some X, none, some X, none, some O, some O, none, some X] X O [2, 4, 7] rfl rfl (List.cons_ne_nil _ _)]
  show pickBest [(2, (minimaxL 2 [some O, some X, some X, some X, none, some O, some O, none, some X] O X).2), (4, (minimaxL 2 [some O, some X, none, some X, some X, some O, some O, none, some X] O X).2), (7, (minimaxL 2 [some O, some X, none, some X, none, some O, some O, some X, some X] O X).2)] X = (some 7, 0)
  rw [mmv_1278, mmv_1485, mmv_1486]
  rfl

theorem mmv_1487 : minimaxL 3 [some O, some X, none, some X, none, some O, none, some O, some X] X O = (some 6, 0) := by
  rw [minimaxL_succ 2 [some O, some X, none, some X, none, some O, none, some O, some X] X O [2, 4, 6] rfl rfl (List.cons_ne_nil _ _)]
  show pickBest [(2, (minimaxL 2 [some O, some X, some X, some X, none, some O, none, some O, some X] O X).2), (4, (minimaxL 2 [some O, some X, none, some X, some X, some O, none, some O, some X] O X).2), (6, (minimaxL 2 [some O, some X, none, some X, none, some O, some X, some O, some X] O X).2)] X = (some 6, 0)
  rw [mmv_1286, mmv_1468, mmv_1475]
  rfl

theorem mmv_1483 : minimaxL 4 [some O, some X, none, some X, none, some O, none, none, some X] O X = (some 4, 0) := by
  rw [minimaxL_succ 3 [some O, some X, none, some X, none, some O, none, none, some X] O X [2, 4, 6, 7] rfl rfl (List.cons_ne_nil _ _)]
  show pickBest [(2, (minimaxL 3 [some O, some X, some O, some X, none, some O, none, none, some X] X O).2), (4, (minimaxL 3 [some O, some X, none, some X, some O, some O, none, none, some X] X O).2), (6, (minimaxL 3 [some O, some X, none, some X, none, some O, some O, none, some X] X O).2), (7, (minimaxL 3 [some O, some X, none, some X, none, some O, none, some O, some X] X O).2)] O = (some 4, 0)
  rw [mmv_1428, mmv_1450, mmv_1484, mmv_1487]
  rfl

theorem mmv_1462 : minimaxL 5 [some O, some X, none, some X, none, some O, none, none, none] X O = (some 8, 0) := by
  rw [minimaxL_succ 4 [some O, some X, none, some X, none, some O, none, none, none] X O [2, 4, 6, 7, 8] rfl rfl (List.cons_ne_nil _ _)]
  show pickBest [(2, (minimaxL 4 [some O, some X, some X, some X, none, some O, none, none, none] O X).2), (4, (minimaxL 4 [some O, some X, none, some X, some X, some O, none, none, none] O X).2), (6, (minimaxL 4 [some O, some X, none, some X, none, some O, some X, none, none] O X).2), (7, (minimaxL 4 [some O, some X, none, some X, none, some O, none, some X, none] O X).2), (8, (minimaxL 4 [some O, some X, none, some X, none, some O, none, none, some X] O X).2)] X = (some 8, 0)
  rw [mmv_1266, mmv_1463, mmv_1471, mmv_1479, mmv_1483]
  rfl

theorem mmv_1490 : minimaxL 3 [some O, some X, none, some X, some X, none, some O, some O, none] X O = (some 5, 1) := rfl

theorem mmv_1491 : minimaxL 3 [some O, some X, none, some X, some X, none, some O, none, some O] X O = (some 7, 1) := rfl

theorem mmv_1489 : minimaxL 4 [some O, some X, none, some X, some X, none, some O, none, none] O X = (some 2, 1) := by
  rw [minimaxL_succ 3 [some O, some X, none, some X, some X, none, some O, none, none] O X [2, 5, 7, 8] rfl rfl (List.cons_ne_nil _ _)]
  show pickBest [(2, (minimaxL 3 [some O, some X, some O, some X, some X, none, some O, none, none] X O).2), (5, (minimaxL 3 [some O, some X, none, some X, some X, some O, some O, none, none] X O).2), (7, (minimaxL 3 [some O, some X, none, some X, some X, none, some O, some O, none] X O).2), (8, (minimaxL 3 [some O, some X, none, some X, some X, none, some O, none, some O] X O).2)] O = (some 2, 1)
  rw [mmv_1384, mmv_1464, mmv_1490, mmv_1491]
  rfl

theorem mmv_1494 : minimaxL 2 [some O, some X, none, some X, some O, some X, some O, some X, none] O X = (some 8, -1) := rfl

theorem mmv_1493 : minimaxL 3 [some O, some X, none, some X, some O, some X, some O, none, none] X O = (some 8, -1) := by
  rw [minimaxL_succ 2 [some O, some X, none, some X, some O, some X, some O, none, none] X O [2, 7, 8] rfl rfl (List.cons_ne_nil _ _)]
  show pickBest [(2, (minimaxL 2 [some O, some X, some X, some X, some O, some X, some O, none, none] O X).2), (7, (minimaxL 2 [some O, some X, none, some X, some O, some X, some O, some X, none] O X).2), (8, (minimaxL 2 [some O, some X, none, some X, some O, some X, some O, none, some X] O X).2)] X = (some 8, -1)
  rw [mmv_1324, mmv_1494, mmv_1456]
  rfl

theorem mmv_1495 : minimaxL 3 [some O, some X, none, some X, none, some X, some O, some O, none] X O = (some 4, 1) := rfl

theorem mmv_1496 : minimaxL 3 [some O, some X, none, some X, none, some X, some O, none, some O] X O = (some 4, 1) := rfl

theorem mmv_1492 : minimaxL 4 [some O, some X, none, some X, none, some X, some O, none, none] O X = (some 4, -1) := by
  rw [minimaxL_succ 3 [some O, some X, none, some X, none, some X, some O, none, none] O X [2, 4, 7, 8] rfl rfl (List.cons_ne_nil _ _)]
  show pickBest [(2, (minimaxL 3 [some O, some X, some O, some X, none, some X, some O, none, none] X O).2), (4, (minimaxL 3 [some O, some X, none, some X, some O, some X, some O, none, none] X O).2), (7, (minimaxL 3 [some O, some X, none, some X, none, some X, some O, some O, none] X O).2), (8, (minimaxL 3 [some O, some X, none, some X, none, some X, some O, none, some O] X O).2)] O = (some 4, -1)
  rw [mmv_1392, mmv_1493, mmv_1495, mmv_1496]
  rfl

theorem mmv_1498 : minimaxL 3 [some O, some X, none, some X, some O, none, some O, some X, none] X O = (some 8, -1) := by
  rw [minimaxL_succ 2 [some O, some X, none, some X, some O, none, some O, some X, none] X O [2, 5, 8] rfl rfl (List.cons_ne_nil _ _)]
  show pickBest [(2, (minimaxL 2 [some O, some X, some X, some X, some O, none, some O, some X, none] O X).2), (5, (minimaxL 2 [some O, some X, none, some X, some O, some X, some O, some X, none] O X).2), (8, (minimaxL 2 [some O, some X, none, some X, some O, none, some O, some X, some X] O X).2)] X = (some 8, -1)
  rw [mmv_1325, mmv_1494, mmv_1457]
  rfl

theorem mmv_1499 : minimaxL 3 [some O, some X, none, some X, none, none, some O, some X, some O] X O = (some 4, 1) := rfl

theorem mmv_1497 : minimaxL 4 [some O, some X, none, some X, none, none, some O, some X, none] O X = (some 4, -1) := by
  rw [minimaxL_succ 3 [some O, some X, none, some X, none, none, some O, some X, none] O X [2, 4, 5, 8] rfl rfl (List.cons_ne_nil _ _)]
  show pickBest [(2, (minimaxL 3 [some O, some X, some O, some X, none, none, some O, some X, none] X O).2), (4, (minimaxL 3 [some O, some X, none, some X, some O, none, some O, some X, none] X O).2), (5, (minimaxL 3 [some O, some X, none, some X, none, some O, some O, some X, none] X O).2), (8, (minimaxL 3 [some O, some X, none, some X, none, none, some O, some X, some O] X O).2)] O = (some 4, -1)
  rw [mmv_1424, mmv_1498, mmv_1481, mmv_1499]
  rfl

theorem mmv_1502 : minimaxL 2 [some O, some X, none, some X, some X, none, some O, some O, some X] O X = (some 5, 0) := by
  rw [minimaxL_succ 1 [some O, some X, none, some X, some X, none, some O, some O, some X] O X [2, 5] rfl rfl (List.cons_ne_nil _ _)]
  show pickBest [(2, (minimaxL 1 [some O, some X, some O, some X, some X, none, some O, some O, some X] X O).2), (5, (minimaxL 1 [some O, some X, none, some X, some X, some O, some O, some O, some X] X O).2)] O = (some 5, 0)
  rw [mmv_1437, mmv_1469]
  rfl

theorem mmv_1503 : minimaxL 2 [some O, some X, none, some X, none, some X, some O, some O, some X] O X = (some 2, 1) := by
  rw [minimaxL_succ 1 [some O, some X, none, some X, none, some X, some O, some O, some X] O X [2, 4] rfl rfl (List.cons_ne_nil _ _)]
  show pickBest [(2, (minimaxL 1 [some O, some X, some O, some X, none, some X, some O, some O, some X] X O).2), (4, (minimaxL 1 [some O, some X, none, some X, some O, some X, some O, some O, some X] X O).2)] O = (some 2, 1)
  rw [mmv_1444, mmv_1460]
  rfl

theorem mmv_1501 : minimaxL 3 [some O, some X, none, some X, none, none, some O, some O, some X] X O = (some 5, 1) := by
  rw [minimaxL_succ 2 [some O, some X, none, some X, none, none, some O, some O, some X] X O [2, 4, 5] rfl rfl (List.cons_ne_nil _ _)]
  show pickBest [(2, (minimaxL 2 [some O, some X, some X, some X, none, none, some O, some O, some X] O X).2), (4, (minimaxL 2 [some O, some X, none, some X, some X, none, some O, some O, some X] O X).2), (5, (minimaxL 2 [some O, some X, none, some X, none, some X, some O, some O, some X] O X).2)] X = (some 5, 1)
  rw [mmv_1331, mmv_1502, mmv_1503]
  rfl

theorem mmv_1500 : minimaxL 4 [some O, some X, none, some X, none, none, some O, none, some X] O X = (some 4, 0) := by
  rw [minimaxL_succ 3 [some O, some X, none, some X, none, none, some O, none, some X] O X [2, 4, 5, 7] rfl rfl (List.cons_ne_nil _ _)]
  show pickBest [(2, (minimaxL 3 [some O, some X, some O, some X, none, none, some O, none, some X] X O).2), (4, (minimaxL 3 [some O, some X, none, some X, some O, none, some O, none, some X] X O).2), (5, (minimaxL 3 [some O, some X, none, some X, none, some O, some O, none, some X] X O).2), (7, (minimaxL 3 [some O, some X, none, some X, none, none, some O, some O, some X] X O).2)] O = (some 4, 0)
  rw [mmv_1435, mmv_1455, mmv_1484, mmv_1501]
  rfl

theorem mmv_1488 : minimaxL 5 [some O, some X, none, some X, none, none, some O, none, none] X O = (some 4, 1) := by
  rw [minimaxL_succ 4 [some O, some X, none, some X, none, none, some O, none, none] X O [2, 4, 5, 7, 8] rfl rfl (List.cons_ne_nil _ _)]
  show pickBest [(2, (minimaxL 4 [some O, some X, some X, some X, none, none, some O, none, none] O X).2), (4, (minimaxL 4 [some O, some X, none, some X, some X, none, some O, none, none] O X).2), (5, (minimaxL 4 [some O, some X, none, some X, none, some X, some O, none, none] O X).2), (7, (minimaxL 4 [some O, some X, none, some X, none, none, some O, some X, none] O X).2), (8, (minimaxL 4 [some O, some X, none, some X, none, none, some O, none, some X] O X).2)] X = (some 4, 1)
  rw [mmv_1322, mmv_1489, mmv_1492, mmv_1497, mmv_1500]
  rfl

theorem mmv_1506 : minimaxL 3 [some O, some X, none, some X, some X, none, none, some O, some O] X O = (some 5, 1) := rfl

theorem mmv_1505 : minimaxL 4 [some O, some X, none, some X, some X, none, none, some O, none] O X = (some 5, 0) := by
  rw [minimaxL_succ 3 [some O, some X, none, some X, some X, none, none, some O, none] O X [2, 5, 6, 8] rfl rfl (List.cons_ne_nil _ _)]
  show pickBest [(2, (minimaxL 3 [some O, some X, some O, some X, some X, none, none, some O, none] X O).2), (5, (minimaxL 3 [some O, some X, none, some X, some X, some O, none, some O, none] X O).2), (6, (minimaxL 3 [some O, some X, none, some X, some X, none, some O, some O, none] X O).2), (8, (minimaxL 3 [some O, some X, none, some X, some X, none, none, some O, some O] X O).2)] O = (some 5, 0)
  rw [mmv_1385, mmv_1465, mmv_1490, mmv_1506]
  rfl

theorem mmv_1509 : minimaxL 2 [some O, some X, none, some X, some O, some X, some X, some O, none] O X = (some 8, -1) := rfl

theorem mmv_1508 : minimaxL 3 [some O, some X, none, some X, some O, some X, none, some O, none] X O = (some 8, 0) := by
  rw [minimaxL_succ 2 [some O, some X, none, some X, some O, some X, none, some O, none] X O [2, 6, 8] rfl rfl (List.cons_ne_nil _ _)]
  show pickBest [(2, (minimaxL 2 [some O, some X, some X, some X, some O, some X, none, some O, none] O X).2), (6, (minimaxL 2 [some O, some X, none, some X, some O, some X, some X, some O, none] O X).2), (8, (minimaxL 2 [some O, some X, none, some X, some O, some X, none, some O, some X] O X).2)] X = (some 8, 0)
  rw [mmv_1343, mmv_1509, mmv_1459]
  rfl

theorem mmv_1510 : minimaxL 3 [some O, some X, none, some X, none, some X, none, some O, some O] X O = (some 4, 1) := rfl

theorem mmv_1507 : minimaxL 4 [some O, some X, none, some X, none, some X, none, some O, none] O X = (some 4, 0) := by
  rw [minimaxL_succ 3 [some O, some X, none, some X, none, some X, none, some O, none] O X [2, 4, 6, 8] rfl rfl (List.cons_ne_nil _ _)]
  show pickBest [(2, (minimaxL 3 [some O, some X, some O, some X, none, some X, none, some O, none] X O).2), (4, (minimaxL 3 [some O, some X, none, some X, some O, some X, none, some O, none] X O).2), (6, (minimaxL 3 [some O, some X, none, some X, none, some X, some O, some O, none] X O).2), (8, (minimaxL 3 [some O, some X, none, some X, none, some X, none, some O, some O] X O).2)] O = (some 4, 0)
  rw [mmv_1393, mmv_1508, mmv_1495, mmv_1510]
  rfl

theorem mmv_1512 : minimaxL 3 [some O, some X, none, some X, some O, none, some X, some O, none] X O = (some 8, 0) := by
  rw [minimaxL_succ 2 [some O, some X, none, some X, some O, none, some X, some O, none] X O [2, 5, 8] rfl rfl (List.cons_ne_nil _ _)]
  show pickBest [(2, (minimaxL 2 [some O, some X, some X, some X, some O, none, some X, some O, none] O X).2), (5, (minimaxL 2 [some O, some X, none, some X, some O, some X, some X, some O, none] O X).2), (8, (minimaxL 2 [some O, some X, none, some X, some O, none, some X, some O, some X] O X).2)] X = (some 8, 0)
  rw [mmv_1344, mmv_1509, mmv_1461]
  rfl

theorem mmv_1514 : minimaxL 2 [some O, some X, none, some X, some X, none, some X, some O, some O] O X = (some 2, 1) := by
  rw [minimaxL_succ 1 [some O, some X, none, some X, some X, none, some X, some O, some O] O X [2, 5] rfl rfl (List.cons_ne_nil _ _)]
  show pickBest [(2, (minimaxL 1 [some O, some X, some O, some X, some X, none, some X, some O, some O] X O).2), (5, (minimaxL 1 [some O, some X, none, some X, some X, some O, some X, some O, some O] X O).2)] O = (some 2, 1)
  rw [mmv_1411, mmv_1467]
  rfl

theorem mmv_1515 : minimaxL 2 [some O, some X, none, some X, none, some X, some X, some O, some O] O X = (some 4, -1) := rfl

theorem mmv_1513 : minimaxL 3 [some O, some X, none, some X, none, none, some X, some O, some O] X O = (some 4, 1) := by
  rw [minimaxL_succ 2 [some O, some X, none, some X, none, none, some X, some O, some O] X O [2, 4, 5] rfl rfl (List.cons_ne_nil _ _)]
  show pickBest [(2, (minimaxL 2 [some O, some X, some X, some X, none, none, some X, some O, some O] O X).2), (4, (minimaxL 2 [some O, some X, none, some X, some X, none, some X, some O, some O] O X).2), (5, (minimaxL 2 [some O, some X, none, some X, none, some X, some X, some O, some O] O X).2)] X = (some 4, 1)
  rw [mmv_1349, mmv_1514, mmv_1515]
  rfl

theorem mmv_1511 : minimaxL 4 [some O, some X, none, some X, none, none, some X, some O, none] O X = (some 2, 0) := by
  rw [minimaxL_succ 3 [some O, some X, none, some X, none, none, some X, some O, none] O X [2, 4, 5, 8] rfl rfl (List.cons_ne_nil _ _)]
  show pickBest [(2, (minimaxL 3 [some O, some X, some O, some X, none, none, some X, some O, none] X O).2), (4, (minimaxL 3 [some O, some X, none, some X, some O, none, some X, some O, none] X O).2), (5, (minimaxL 3 [some O, some X, none, some X, none, some O, some X, some O, none] X O).2), (8, (minimaxL 3 [some O, some X, none, some X, none, none, some X, some O, some O] X O).2)] O = (some 2, 0)
  rw [mmv_1408, mmv_1512, mmv_1474, mmv_1513]
  rfl

theorem mmv_1516 : minimaxL 4 [some O, some X, none, some X, none, none, none, some O, some X] O X = (some 2, 0) := by
  rw [minimaxL_succ 3 [some O, some X, none, some X, none, none, none, some O, some X] O X [2, 4, 5, 6] rfl rfl (List.cons_ne_nil _ _)]
  show pickBest [(2, (minimaxL 3 [some O, some X, some O, some X, none, none, none, some O, some X] X O).2), (4, (minimaxL 3 [some O, some X, none, some X, some O, none, none, some O, some X] X O).2), (5, (minimaxL 3 [some O, some X, none, some X, none, some O, none, some O, some X] X O).2), (6, (minimaxL 3 [some O, some X, none, some X, none, none, some O, some O, some X] X O).2)] O = (some 2, 0)
  rw [mmv_1440, mmv_1458, mmv_1487, mmv_1501]
  rfl

theorem mmv_1504 : minimaxL 5 [some O, some X, none, some X, none, none, none, some O, none] X O = (some 8, 0) := by
  rw [minimaxL_succ 4 [some O, some X, none, some X, none, none, none, some O, none] X O [2, 4, 5, 6, 8] rfl rfl (List.cons_ne_nil _ _)]
  show pickBest [(2, (minimaxL 4 [some O, some X, some X, some X, none, none, none, some O, none] O X).2), (4, (minimaxL 4 [some O, some X, none, some X, some X, none, none, some O, none] O X).2), (5, (minimaxL 4 [some O, some X, none, some X, none, some X, none, some O, none] O X).2), (6, (minimaxL 4 [some O, some X, none, some X, none, none, some X, some O, none] O X).2), (8, (minimaxL 4 [some O, some X, none, some X, none, none, none, some O, some X] O X).2)] X = (some 8, 0)
  rw [mmv_1341, mmv_1505, mmv_1507, mmv_1511, mmv_1516]
  rfl

theorem mmv_1518 : minimaxL 4 [some O, some X, none, some X, some X, none, none, none, some O] O X = (some 2, 1) := by
  rw [minimaxL_succ 3 [some O, some X, none, some X, some X, none, none, none, some O] O X [2, 5, 6, 7] rfl rfl (List.cons_ne_nil _ _)]
  show pickBest [(2, (minimaxL 3 [some O, some X, some O, some X, some X, none, none, none, some O] X O).2), (5, (minimaxL 3 [some O, some X, none, some X, some X, some O, none, none, some O] X O).2), (6, (minimaxL 3 [some O, some X, none, some X, some X, none, some O, none, some O] X O).2), (7, (minimaxL 3 [some O, some X, none, some X, some X, none, none, some O, some O] X O).2)] O = (some 2, 1)
  rw [mmv_1386, mmv_1470, mmv_1491, mmv_1506]
  rfl

theorem mmv_1519 : minimaxL 4 [some O, some X, none, some X, none, some X, none, none, some O] O X = (some 4, -1) := rfl

theorem mmv_1520 : minimaxL 4 [some O, some X, none, some X, none, none, some X, none, some O] O X = (some 4, -1) := rfl

theorem mmv_1521 : minimaxL 4 [some O, some X, none, some X, none, none, none, some X, some O] O X = (some 4, -1) := rfl

theorem mmv_1517 : minimaxL 5 [some O, some X, none, some X, none, none, none, none, some O] X O = (some 4, 1) := by
  rw [minimaxL_succ 4 [some O, some X, none, some X, none, none, none, none, some O] X O [2, 4, 5, 6, 7] rfl rfl (List.cons_ne_nil _ _)]
  show pickBest [(2, (minimaxL 4 [some O, some X, some X, some X, none, none, none, none, some O] O X).2), (4, (minimaxL 4 [some O, some X, none, some X, some X, none, none, none, some O] O X).2), (5, (minimaxL 4 [some O, some X, none, some X, none, some X, none, none, some O] O X).2), (6, (minimaxL 4 [some O, some X, none, some X, none, none, some X, none, some O] O X).2), (7, (minimaxL 4 [some O, some X, none, some X, none, none, none, some X, some O] O X).2)] X = (some 4, 1)
  rw [mmv_1373, mmv_1518, mmv_1519, mmv_1520, mmv_1521]
  rfl

theorem mmv_1380 : minimaxL 6 [some O, some X, none, some X, none, none, none, none, none] O X = (some 4, 0) := by
  rw [minimaxL_succ 5 [some O, some X, none, some X, none, none, none, none, none] O X [2, 4, 5, 6, 7, 8] rfl rfl (List.cons_ne_nil _ _)]
  show pickBest [(2, (minimaxL 5 [some O, some X, some O, some X, none, none, none, none, none] X O).2), (4, (minimaxL 5 [some O, some X, none, some X, some O, none, none, none, none] X O).2), (5, (minimaxL 5 [some O, some X, none, some X, none, some O, none, none, none] X O).2), (6, (minimaxL 5 [some O, some X, none, some X, none, none, some O, none, none] X O).2), (7, (minimaxL 5 [some O, some X, none, some X, none, none, none, some O, none] X O).2), (8, (minimaxL 5 [some O, some X, none, some X, none, none, none, none, some O] X O).2)] O = (some 4, 0)
  rw [mmv_1381, mmv_1445, mmv_1462, mmv_1488, mmv_1504, mmv_1517]
  rfl

theorem mmv_1523 : minimaxL 5 [some O, some X, some O, none, some X, none, none, none, none] X O = (some 7, 1) := rfl

theorem mmv_1524 : minimaxL 5 [some O, some X, none, some O, some X, none, none, none, none] X O = (some 7, 1) := rfl

theorem mmv_1525 : minimaxL 5 [some O, some X, none, none, some X, some O, none, none, none] X O = (some 7, 1) := rfl

theorem mmv_1526 : minimaxL 5 [some O, some X, none, none, some X, none, some O, none, none] X O = (some 7, 1) := rfl

theorem mmv_1529 : minimaxL 3 [some O, some X, some O, none, some X, some X, none, some O, none] X O = (some 3, 1) := rfl

theorem mmv_1531 : minimaxL 2 [some O, some X, some X, some O, some X, some X, none, some O, none] O X = (some 6, -1) := rfl

theorem mmv_1534 : minimaxL 0 [some O, some X, some O, some O, some X, some X, some X, some O, some X] O X = (none, 0) := rfl

theorem mmv_1533 : minimaxL 1 [some O, some X, some O, some O, some X, some X, some X, some O, none] X O = (some 8, 0) := by
  rw [minimaxL_succ 0 [some O, some X, some O, some O, some X, some X, some X, some O, none] X O [8] rfl rfl (List.cons_ne_nil _ _)]
  show pickBest [(8, (minimaxL 0 [some O, some X, some O, some O, some X, some X, some X, some O, some X] O X).2)] X = (some 8, 0)
  rw [mmv_1534]
  rfl

theorem mmv_1535 : minimaxL 1 [some O, some X, none, some O, some X, some X, some X, some O, some O] X O = (some 2, 1) := rfl

theorem mmv_1532 : minimaxL 2 [some O, some X, none, some O, some X, some X, some X, some O, none] O X = (some 2, 0) := by
  rw [minimaxL_succ 1 [some O, some X, none, some O, some X, some X, some X, some O, none] O X [2, 8] rfl rfl (List.cons_ne_nil _ _)]
  show pickBest [(2, (minimaxL 1 [some O, some X, some O, some O, some X, some X, some X, some O, none] X O).2), (8, (minimaxL 1 [some O, some X, none, some O, some X, some X, some X, some O, some O] X O).2)] O = (some 2, 0)
  rw [mmv_1533, mmv_1535]
  rfl

theorem mmv_1536 : minimaxL 2 [some O, some X, none, some O, some X, some X, none, some O, some X] O X = (some 6, -1) := rfl

theorem mmv_1530 : minimaxL 3 [some O, some X, none, some O, some X, some X, none, some O, none] X O = (some 6, 0) := by
  rw [minimaxL_succ 2 [some O, some X, none, some O, some X, some X, none, some O, none] X O [2, 6, 8] rfl rfl (List.cons_ne_nil _ _)]
  show pickBest [(2, (minimaxL 2 [some O, some X, some X, some O, some X, some X, none, some O, none] O X).2), (6, (minimaxL 2 [some O, some X, none, some O, some X, some X, some X, some O, none] O X).2), (8, (minimaxL 2 [some O, some X, none, some O, some X, some X, none, some O, some X] O X).2)] X = (some 6, 0)
  rw [mmv_1531, mmv_1532, mmv_1536]
  rfl

theorem mmv_1537 : minimaxL 3 [some O, some X, none, none, some X, some X, some O, some O, none] X O = (some 3, 1) := rfl

theorem mmv_1538 : minimaxL 3 [some O, some X, none, none, some X, some X, none, some O, some O] X O = (some 3, 1) := rfl

theorem mmv_1528 : minimaxL 4 [some O, some X, none, none, some X, some X, none, some O, none] O X = (some 3, 0) := by
  rw [minimaxL_succ 3 [some O, some X, none, none, some X, some X, none, some O, none] O X [2, 3, 6, 8] rfl rfl (List.cons_ne_nil _ _)]
  show pickBest [(2, (minimaxL 3 [some O, some X, some O, none, some X, some X, none, some O, none] X O).2), (3, (minimaxL 3 [some O, some X, none, some O, some X, some X, none, some O, none] X O).2), (6, (minimaxL 3 [some O, some X, none, none, some X, some X, some O, some O, none] X O).2), (8, (minimaxL 3 [some O, some X, none, none, some X, some X, none, some O, some O] X O).2)] O = (some 3, 0)
  rw [mmv_1529, mmv_1530, mmv_1537, mmv_1538]
  rfl

theorem mmv_1542 : minimaxL 1 [some O, some X, some O, none, some X, some X, some X, some O, some O] X O = (some 3, 1) := rfl

theorem mmv_1541 : minimaxL 2 [some O, some X, some O, none, some X, some X, some X, some O, none] O X = (some 3, 0) := by
  rw [minimaxL_succ 1 [some O, some X, some O, none, some X, some X, some X, some O, none] O X [3, 8] rfl rfl (List.cons_ne_nil _ _)]
  show pickBest [(3, (minimaxL 1 [some O, some X, some O, some O, some X, some X, some X, some O, none] X O).2), (8, (minimaxL 1 [some O, some X, some O, none, some X, some X, some X, some O, some O] X O).2)] O = (some 3, 0)
  rw [mmv_1533, mmv_1542]
  rfl

theorem mmv_1544 : minimaxL 1 [some O, some X, some O, some O, some X, none, some X, some O, some X] X O = (some 5, 0) := by
  rw [minimaxL_succ 0 [some O, some X, some O, some O, some X, none, some X, some O, some X] X O [5] rfl rfl (List.cons_ne_nil _ _)]
  show pickBest [(5, (minimaxL 0 [some O, some X, some O, some O, some X, some X, some X, some O, some X] O X).2)] X = (some 5, 0)
  rw [mmv_1534]
  rfl

theorem mmv_1545 : minimaxL 1 [some O, some X, some O, none, some X, some O, some X, some O, some X] X O = (some 3, 0) := by
  rw [minimaxL_succ 0 [some O, some X, some O, none, some X, some O, some X, some O, some X] X O [3] rfl rfl (List.cons_ne_nil _ _)]
  show pickBest [(3, (minimaxL 0 [some O, some X, some O, some X, some X, some O, some X, some O, some X] O X).2)] X = (some 3, 0)
  rw [mmv_1407]
  rfl

theorem mmv_1543 : minimaxL 2 [some O, some X, some O, none, some X, none, some X, some O, some X] O X = (some 3, 0) := by
  rw [minimaxL_succ 1 [some O, some X, some O, none, some X, none, some X, some O, some X] O X [3, 5] rfl rfl (List.cons_ne_nil _ _)]
  show pickBest [(3, (minimaxL 1 [some O, some X, some O, some O, some X, none, some X, some O, some X] X O).2), (5, (minimaxL 1 [some O, some X, some O, none, some X, some O, some X, some O, some X] X O).2)] O = (some 3, 0)
  rw [mmv_1544, mmv_1545]
  rfl

theorem mmv_1540 : minimaxL 3 [some O, some X, some O, none, some X, none, some X, some O, none] X O = (some 8, 0) := by
  rw [minimaxL_succ 2 [some O, some X, some O, none, some X, none, some X, some O, none] X O [3, 5, 8] rfl rfl (List.cons_ne_nil _ _)]
  show pickBest [(3, (minimaxL 2 [some O, some X, some O, some X, some X, none, some X, some O, none] O X).2), (5, (minimaxL 2 [some O, some X, some O, none, some X, some X, some X, some O, none] O X).2), (8, (minimaxL 2 [some O, some X, some O, none, some X, none, some X, some O, some X] O X).2)] X = (some 8, 0)
  rw [mmv_1409, mmv_1541, mmv_1543]
  rfl

theorem mmv_1546 : minimaxL 3 [some O, some X, none, some O, some X, none, some X, some O, none] X O = (some 2, 1) := rfl

theorem mmv_1547 : minimaxL 3 [some O, some X, none, none, some X, some O, some X, some O, none] X O = (some 2, 1) := rfl

theorem mmv_1548 : minimaxL 3 [some O, some X, none, none, some X, none, some X, some O, some O] X O = (some 2, 1) := rfl

theorem mmv_1539 : minimaxL 4 [some O, some X, none, none, some X, none, some X, some O, none] O X = (some 2, 0) := by
  rw [minimaxL_succ 3 [some O, some X, none, none, some X, none, some X, some O, none] O X [2, 3, 5, 8] rfl rfl (List.cons_ne_nil _ _)]
  show pickBest [(2, (minimaxL 3 [some O, some X, some O, none, some X, none, some X, some O, none] X O).2), (3, (minimaxL 3 [some O, some X, none, some O, some X, none, some X, some O, none] X O).2), (5, (minimaxL 3 [some O, some X, none, none, some X, some O, some X, some O, none] X O).2), (8, (minimaxL 3 [some O, some X, none, none, some X, none, some X, some O, some O] X O).2)] O = (some 2, 0)
  rw [mmv_1540, mmv_1546, mmv_1547, mmv_1548]
  rfl

theorem mmv_1552 : minimaxL 1 [some O, some X, some O, some O, some X, some X, none, some O, some X] X O = (some 6, 0) := by
  rw [minimaxL_succ 0 [some O, some X, some O, some O, some X, some X, none, some O, some X] X O [6] rfl rfl (List.cons_ne_nil _ _)]
  show pickBest [(6, (minimaxL 0 [some O, some X, some O, some O, some X, some X, some X, some O, some X] O X).2)] X = (some 6, 0)
  rw [mmv_1534]
  rfl

theorem mmv_1553 : minimaxL 1 [some O, some X, some O, none, some X, some X, some O, some O, some X] X O = (some 3, 1) := rfl

theorem mmv_1551 : minimaxL 2 [some O, some X, some O, none, some X, some X, none, some O, some X] O X = (some 3, 0) := by
  rw [minimaxL_succ 1 [some O, some X, some O, none, some X, some X, none, some O, some X] O X [3, 6] rfl rfl (List.cons_ne_nil _ _)]
  show pickBest [(3, (minimaxL 1 [some O, some X, some O, some O, some X, some X, none, some O, some X] X O).2), (6, (minimaxL 1 [some O, some X, some O, none, some X, some X, some O, some O, some X] X O).2)] O = (some 3, 0)
  rw [mmv_1552, mmv_1553]
  rfl

theorem mmv_1550 : minimaxL 3 [some O, some X, some O, none, some X, none, none, some O, some X] X O = (some 6, 0) := by
  rw [minimaxL_succ 2 [some O, some X, some O, none, some X, none, none, some O, some X] X O [3, 5, 6] rfl rfl (List.cons_ne_nil _ _)]
  show pickBest [(3, (minimaxL 2 [some O, some X, some O, some X, some X, none, none, some O, some X] O X).2), (5, (minimaxL 2 [some O, some X, some O, none, some X, some X, none, some O, some X] O X).2), (6, (minimaxL 2 [some O, some X, some O, none, some X, none, some X, some O, some X] O X).2)] X = (some 6, 0)
  rw [mmv_1441, mmv_1551, mmv_1543]
  rfl

theorem mmv_1555 : minimaxL 2 [some O, some X, some X, some O, some X, none, none, some O, some X] O X = (some 6, -1) := rfl

theorem mmv_1557 : minimaxL 1 [some O, some X, none, some O, some X, some O, some X, some O, some X] X O = (some 2, 1) := rfl

theorem mmv_1556 : minimaxL 2 [some O, some X, none, some O, some X, none, some X, some O, some X] O X = (some 2, 0) := by
  rw [minimaxL_succ 1 [some O, some X, none, some O, some X, none, some X, some O, some X] O X [2, 5] rfl rfl (List.cons_ne_nil _ _)]
  show pickBest [(2, (minimaxL 1 [some O, some X, some O, some O, some X, none, some X, some O, some X] X O).2), (5, (minimaxL 1 [some O, some X, none, some O, some X, some O, some X, some O, some X] X O).2)] O = (some 2, 0)
  rw [mmv_1544, mmv_1557]
  rfl

theorem mmv_1554 : minimaxL 3 [some O, some X, none, some O, some X, none, none, some O, some X] X O = (some 6, 0) := by
  rw [minimaxL_succ 2 [some O, some X, none, some O, some X, none, none, some O, some X] X O [2, 5, 6] rfl rfl (List.cons_ne_nil _ _)]
  show pickBest [(2, (minimaxL 2 [some O, some X, some X, some O, some X, none, none, some O, some X] O X).2), (5, (minimaxL 2 [some O, some X, none, some O, some X, some X, none, some O, some X] O X).2), (6, (minimaxL 2 [some O, some X, none, some O, some X, none, some X, some O, some X] O X).2)] X = (some 6, 0)
  rw [mmv_1555, mmv_1536, mmv_1556]
  rfl

theorem mmv_1559 : minimaxL 2 [some O, some X, none, none, some X, some O, some X, some O, some X] O X = (some 2, 0) := by
  rw [minimaxL_succ 1 [some O, some X, none, none, some X, some O, some X, some O, some X] O X [2, 3] rfl rfl (List.cons_ne_nil _ _)]
  show pickBest [(2, (minimaxL 1 [some O, some X, some O, none, some X, some O, some X, some O, some X] X O).2), (3, (minimaxL 1 [some O, some X, none, some O, some X, some O, some X, some O, some X] X O).2)] O = (some 2, 0)
  rw [mmv_1545, mmv_1557]
  rfl

theorem mmv_1558 : minimaxL 3 [some O, some X, none, none, some X, some O, none, some O, some X] X O = (some 6, 0) := by
  rw [minimaxL_succ 2 [some O, some X, none, none, some X, some O, none, some O, some X] X O [2, 3, 6] rfl rfl (List.cons_ne_nil _ _)]
  show pickBest [(2, (minimaxL 2 [some O, some X, some X, none, some X, some O, none, some O, some X] O X).2), (3, (minimaxL 2 [some O, some X, none, some X, some X, some O, none, some O, some X] O X).2), (6, (minimaxL 2 [some O, some X, none, none, some X, some O, some X, some O, some X] O X).2)] X = (some 6, 0)
  rw [mmv_1315, mmv_1468, mmv_1559]
  rfl

theorem mmv_1561 : minimaxL 2 [some O, some X, none, none, some X, some X, some O, some O, some X] O X = (some 3, -1) := rfl

theorem mmv_1560 : minimaxL 3 [some O, some X, none, none, some X, none, some O, some O, some X] X O = (some 3, 0) := by
  rw [minimaxL_succ 2 [some O, some X, none, none, some X, none, some O, some O, some X] X O [2, 3, 5] rfl rfl (List.cons_ne_nil _ _)]
  show pickBest [(2, (minimaxL 2 [some O, some X, some X, none, some X, none, some O, some O, some X] O X).2), (3, (minimaxL 2 [some O, some X, none, some X, some X, none, some O, some O, some X] O X).2), (5, (minimaxL 2 [some O, some X, none, none, some X, some X, some O, some O, some X] O X).2)] X = (some 3, 0)
  rw [mmv_1354, mmv_1502, mmv_1561]
  rfl

theorem mmv_1549 : minimaxL 4 [some O, some X, none, none, some X, none, none, some O, some X] O X = (some 2, 0) := by
  rw [minimaxL_succ 3 [some O, some X, none, none, some X, none, none, some O, some X] O X [2, 3, 5, 6] rfl rfl (List.cons_ne_nil _ _)]
  show pickBest [(2, (minimaxL 3 [some O, some X, some O, none, some X, none, none, some O, some X] X O).2), (3, (minimaxL 3 [some O, some X, none, some O, some X, none, none, some O, some X] X O).2), (5, (minimaxL 3 [some O, some X, none, none, some X, some O, none, some O, some X] X O).2), (6, (minimaxL 3 [some O, some X, none, none, some X, none, some O, some O, some X] X O).2)] O = (some 2, 0)
  rw [mmv_1550, mmv_1554, mmv_1558, mmv_1560]
  rfl

theorem mmv_1527 : minimaxL 5 [some O, some X, none, none, some X, none, none, some O, none] X O = (some 8, 0) := by
  rw [minimaxL_succ 4 [some O, some X, none, none, some X, none, none, some O, none] X O [2, 3, 5, 6, 8] rfl rfl (List.cons_ne_nil _ _)]
  show pickBest [(2, (minimaxL 4 [some O, some X, some X, none, some X, none, none, some O, none] O X).2), (3, (minimaxL 4 [some O, some X, none, some X, some X, none, none, some O, none] O X).2), (5, (minimaxL 4 [some O, some X, none, none, some X, some X, none, some O, none] O X).2), (6, (minimaxL 4 [some O, some X, none, none, some X, none, some X, some O, none] O X).2), (8, (minimaxL 4 [some O, some X, none, none, some X, none, none, some O, some X] O X).2)] X = (some 8, 0)
  rw [mmv_1350, mmv_1505, mmv_1528, mmv_1539, mmv_1549]
  rfl

theorem mmv_1562 : minimaxL 5 [some O, some X, none, none, some X, none, none, none, some O] X O = (some 7, 1) := rfl

theorem mmv_1522 : minimaxL 6 [some O, some X, none, none, some X, none, none, none, none] O X = (some 7, 0) := by
  rw [minimaxL_succ 5 [some O, some X, none, none, some X, none, none, none, none] O X [2, 3, 5, 6, 7, 8] rfl rfl (List.cons_ne_nil _ _)]
  show pickBest [(2, (minimaxL 5 [some O, some X, some O, none, some X, none, none, none, none] X O).2), (3, (minimaxL 5 [some O, some X, none, some O, some X, none, none, none, none] X O).2), (5, (minimaxL 5 [some O, some X, none, none, some X, some O, none, none, none] X O).2), (6, (minimaxL 5 [some O, some X, none, none, some X, none, some O, none, none] X O).2), (7, (minimaxL 5 [some O, some X, none, none, some X, none, none, some O, none] X O).2), (8, (minimaxL 5 [some O, some X, none, none, some X, none, none, none, some O] X O).2)] O = (some 7, 0)
  rw [mmv_1523, mmv_1524, mmv_1525, mmv_1526, mmv_1527, mmv_1562]
  rfl

theorem mmv_1566 : minimaxL 3 [some O, some X, some O, some O, some X, some X, none, none, none] X O = (some 7, 1) := rfl

theorem mmv_1567 : minimaxL 3 [some O, some X, some O, none, some X, some X, some O, none, none] X O = (some 7, 1) := rfl

theorem mmv_1568 : minimaxL 3 [some O, some X, some O, none, some X, some X, none, none, some O] X O = (some 7, 1) := rfl

theorem mmv_1565 : minimaxL 4 [some O, some X, some O, none, some X, some X, none, none, none] O X = (some 3, 1) := by
  rw [minimaxL_succ 3 [some O, some X, some O, none, some X, some X, none, none, none] O X [3, 6, 7, 8] rfl rfl (List.cons_ne_nil _ _)]
  show pickBest [(3, (minimaxL 3 [some O, some X, some O, some O, some X, some X, none, none, none] X O).2), (6, (minimaxL 3 [some O, some X, some O, none, some X, some X, some O, none, none] X O).2), (7, (minimaxL 3 [some O, some X, some O, none, some X, some X, none, some O, none] X O).2), (8, (minimaxL 3 [some O, some X, some O, none, some X, some X, none, none, some O] X O).2)] O = (some 3, 1)
  rw [mmv_1566, mmv_1567, mmv_1529, mmv_1568]
  rfl

theorem mmv_1572 : minimaxL 1 [some O, some X, some O, some O, some X, some X, some X, none, some O] X O = (some 7, 1) := rfl

theorem mmv_1571 : minimaxL 2 [some O, some X, some O, some O, some X, some X, some X, none, none] O X = (some 7, 0) := by
  rw [minimaxL_succ 1 [some O, some X, some O, some O, some X, some X, some X, none, none] O X [7, 8] rfl rfl (List.cons_ne_nil _ _)]
  show pickBest [(7, (minimaxL 1 [some O, some X, some O, some O, some X, some X, some X, some O, none] X O).2), (8, (minimaxL 1 [some O, some X, some O, some O, some X, some X, some X, none, some O] X O).2)] O = (some 7, 0)
  rw [mmv_1533, mmv_1572]
  rfl

theorem mmv_1574 : minimaxL 1 [some O, some X, some O, some O, some O, some X, some X, some X, none] X O = (some 8, 1) := rfl

theorem mmv_1575 : minimaxL 1 [some O, some X, some O, some O, none, some X, some X, some X, some O] X O = (some 4, 1) := rfl

theorem mmv_1573 : minimaxL 2 [some O, some X, some O, some O, none, some X, some X, some X, none] O X = (some 4, 1) := by
  rw [minimaxL_succ 1 [some O, some X, some O, some O, none, some X, some X, some X, none] O X [4, 8] rfl rfl (List.cons_ne_nil _ _)]
  show pickBest [(4, (minimaxL 1 [some O, some X, some O, some O, some O, some X, some X, some X, none] X O).2), (8, (minimaxL 1 [some O, some X, some O, some O, none, some X, some X, some X, some O] X O).2)] O = (some 4, 1)
  rw [mmv_1574, mmv_1575]
  rfl

theorem mmv_1577 : minimaxL 1 [some O, some X, some O, some O, some O, some X, some X, none, some X] X O = (some 7, 1) := rfl

theorem mmv_1578 : minimaxL 1 [some O, some X, some O, some O, none, some X, some X, some O, some X] X O = (some 4, 0) := by
  rw [minimaxL_succ 0 [some O, some X, some O, some O, none, some X, some X, some O, some X] X O [4] rfl rfl (List.cons_ne_nil _ _)]
  show pickBest [(4, (minimaxL 0 [some O, some X, some O, some O, some X, some X, some X, some O, some X] O X).2)] X = (some 4, 0)
  rw [mmv_1534]
  rfl

theorem mmv_1576 : minimaxL 2 [some O, some X, some O, some O, none, some X, some X, none, some X] O X = (some 7, 0) := by
  rw [minimaxL_succ 1 [some O, some X, some O, some O, none, some X, some X, none, some X] O X [4, 7] rfl rfl (List.cons_ne_nil _ _)]
  show pickBest [(4, (minimaxL 1 [some O, some X, some O, some O, some O, some X, some X, none, some X] X O).2), (7, (minimaxL 1 [some O, some X, some O, some O, none, some X, some X, some O, some X] X O).2)] O = (some 7, 0)
  rw [mmv_1577, mmv_1578]
  rfl

theorem mmv_1570 : minimaxL 3 [some O, some X, some O, some O, none, some X, some X, none, none] X O = (some 7, 1) := by
  rw [minimaxL_succ 2 [some O, some X, some O, some O, none, some X, some X, none, none] X O [4, 7, 8] rfl rfl (List.cons_ne_nil _ _)]
  show pickBest [(4, (minimaxL 2 [some O, some X, some O, some O, some X, some X, some X, none, none] O X).2), (7, (minimaxL 2 [some O, some X, some O, some O, none, some X, some X, some X, none] O X).2), (8, (minimaxL 2 [some O, some X, some O, some O, none, some X, some X, none, some X] O X).2)] X = (some 7, 1)
  rw [mmv_1571, mmv_1573, mmv_1576]
  rfl

theorem mmv_1580 : minimaxL 2 [some O, some X, some O, none, some O, some X, some X, some X, none] O X = (some 8, -1) := rfl

theorem mmv_1582 : minimaxL 1 [some O, some X, some O, none, some O, some X, some X, some O, some X] X O = (some 3, 0) := by
  rw [minimaxL_succ 0 [some O, some X, some O, none, some O, some X, some X, some O, some X] X O [3] rfl rfl (List.cons_ne_nil _ _)]
  show pickBest [(3, (minimaxL 0 [some O, some X, some O, some X, some O, some X, some X, some O, some X] O X).2)] X = (some 3, 0)
  rw [mmv_1401]
  rfl

theorem mmv_1581 : minimaxL 2 [some O, some X, some O, none, some O, some X, some X, none, some X] O X = (some 7, 0) := by
  rw [minimaxL_succ 1 [some O, some X, some O, none, some O, some X, some X, none, some X] O X [3, 7] rfl rfl (List.cons_ne_nil _ _)]
  show pickBest [(3, (minimaxL 1 [some O, some X, some O, some O, some O, some X, some X, none, some X] X O).2), (7, (minimaxL 1 [some O, some X, some O, none, some O, some X, some X, some O, some X] X O).2)] O = (some 7, 0)
  rw [mmv_1577, mmv_1582]
  rfl

theorem mmv_1579 : minimaxL 3 [some O, some X, some O, none, some O, some X, some X, none, none] X O = (some 8, 0) := by
  rw [minimaxL_succ 2 [some O, some X, some O, none, some O, some X, some X, none, none] X O [3, 7, 8] rfl rfl (List.cons_ne_nil _ _)]
  show pickBest [(3, (minimaxL 2 [some O, some X, some O, some X, some O, some X, some X, none, none] O X).2), (7, (minimaxL 2 [some O, some X, some O, none, some O, some X, some X, some X, none] O X).2), (8, (minimaxL 2 [some O, some X, some O, none, some O, some X, some X, none, some X] O X).2)] X = (some 8, 0)
  rw [mmv_1389, mmv_1580, mmv_1581]
  rfl

theorem mmv_1584 : minimaxL 2 [some O, some X, some O, none, none, some X, some X, some O, some X] O X = (some 3, 0) := by
  rw [minimaxL_succ 1 [some O, some X, some O, none, none, some X, some X, some O, some X] O X [3, 4] rfl rfl (List.cons_ne_nil _ _)]
  show pickBest [(3, (minimaxL 1 [some O, some X, some O, some O, none, some X, some X, some O, some X] X O).2), (4, (minimaxL 1 [some O, some X, some O, none, some O, some X, some X, some O, some X] X O).2)] O = (some 3, 0)
  rw [mmv_1578, mmv_1582]
  rfl

theorem mmv_1583 : minimaxL 3 [some O, some X, some O, none, none, some X, some X, some O, none] X O = (some 8, 0) := by
  rw [minimaxL_succ 2 [some O, some X, some O, none, none, some X, some X, some O, none] X O [3, 4, 8] rfl rfl (List.cons_ne_nil _ _)]
  show pickBest [(3, (minimaxL 2 [some O, some X, some O, some X, none, some X, some X, some O, none] O X).2), (4, (minimaxL 2 [some O, some X, some O, none, some X, some X, some X, some O, none] O X).2), (8, (minimaxL 2 [some O, some X, some O, none, none, some X, some X, some O, some X] O X).2)] X = (some 8, 0)
  rw [mmv_1412, mmv_1541, mmv_1584]
  rfl

theorem mmv_1586 : minimaxL 2 [some O, some X, some O, none, some X, some X, some X, none, some O] O X = (some 3, 1) := by
  rw [minimaxL_succ 1 [some O, some X, some O, none, some X, some X, some X, none, some O] O X [3, 7] rfl rfl (List.cons_ne_nil _ _)]
  show pickBest [(3, (minimaxL 1 [some O, some X, some O, some O, some X, some X, some X, none, some O] X O).2), (7, (minimaxL 1 [some O, some X, some O, none, some X, some X, some X, some O, some O] X O).2)] O = (some 3, 1)
  rw [mmv_1572, mmv_1542]
  rfl

theorem mmv_1587 : minimaxL 2 [some O, some X, some O, none, none, some X, some X, some X, some O] O X = (some 4, -1) := rfl

theorem mmv_1585 : minimaxL 3 [some O, some X, some O, none, none, some X, some X, none, some O] X O = (some 4, 1) := by
  rw [minimaxL_succ 2 [some O, some X, some O, none, none, some X, some X, none, some O] X O [3, 4, 7] rfl rfl (List.cons_ne_nil _ _)]
  show pickBest [(3, (minimaxL 2 [some O, some X, some O, some X, none, some X, some X, none, some O] O X).2), (4, (minimaxL 2 [some O, some X, some O, none, some X, some X, some X, none, some O] O X).2), (7, (minimaxL 2 [some O, some X, some O, none, none, some X, some X, some X, some O] O X).2)] X = (some 4, 1)
  rw [mmv_1418, mmv_1586, mmv_1587]
  rfl

theorem mmv_1569 : minimaxL 4 [some O, some X, some O, none, none, some X, some X, none, none] O X = (some 4, 0) := by
  rw [minimaxL_succ 3 [some O, some X, some O, none, none, some X, some X, none, none] O X [3, 4, 7, 8] rfl rfl (List.cons_ne_nil _ _)]
  show pickBest [(3, (minimaxL 3 [some O, some X, some O, some O, none, some X, some X, none, none] X O).2), (4, (minimaxL 3 [some O, some X, some O, none, some O, some X, some X, none, none] X O).2), (7, (minimaxL 3 [some O, some X, some O, none, none, some X, some X, some O, none] X O).2), (8, (minimaxL 3 [some O, some X, some O, none, none, some X, some X, none, some O] X O).2)] O = (some 4, 0)
  rw [mmv_1570, mmv_1579, mmv_1583, mmv_1585]
  rfl

theorem mmv_1589 : minimaxL 3 [some O, some X, some O, some O, none, some X, none, some X, none] X O = (some 4, 1) := rfl

theorem mmv_1591 : minimaxL 2 [some O, some X, some O, none, some O, some X, none, some X, some X] O X = (some 6, -1) := rfl

theorem mmv_1590 : minimaxL 3 [some O, some X, some O, none, some O, some X, none, some X, none] X O = (some 8, -1) := by
  rw [minimaxL_succ 2 [some O, some X, some O, none, some O, some X, none, some X, none] X O [3, 6, 8] rfl rfl (List.cons_ne_nil _ _)]
  show pickBest [(3, (minimaxL 2 [some O, some X, some O, some X, some O, some X, none, some X, none] O X).2), (6, (minimaxL 2 [some O, some X, some O, none, some O, some X, some X, some X, none] O X).2), (8, (minimaxL 2 [some O, some X, some O, none, some O, some X, none, some X, some X] O X).2)] X = (some 8, -1)
  rw [mmv_1390, mmv_1580, mmv_1591]
  rfl

theorem mmv_1592 : minimaxL 3 [some O, some X, some O, none, none, some X, some O, some X, none] X O = (some 4, 1) := rfl

theorem mmv_1593 : minimaxL 3 [some O, some X, some O, none, none, some X, none, some X, some O] X O = (some 4, 1) := rfl

theorem mmv_1588 : minimaxL 4 [some O, some X, some O, none, none, some X, none, some X, none] O X = (some 4, -1) := by
  rw [minimaxL_succ 3 [some O, some X, some O, none, none, some X, none, some X, none] O X [3, 4, 6, 8] rfl rfl (List.cons_ne_nil _ _)]
  show pickBest [(3, (minimaxL 3 [some O, some X, some O, some O, none, some X, none, some X, none] X O).2), (4, (minimaxL 3 [some O, some X, some O, none, some O, some X, none, some X, none] X O).2), (6, (minimaxL 3 [some O, some X, some O, none, none, some X, some O, some X, none] X O).2), (8, (minimaxL 3 [some O, some X, some O, none, none, some X, none, some X, some O] X O).2)] O = (some 4, -1)
  rw [mmv_1589, mmv_1590, mmv_1592, mmv_1593]
  rfl

theorem mmv_1596 : minimaxL 2 [some O, some X, some O, some O, some X, some X, none, none, some X] O X = (some 6, -1) := rfl

theorem mmv_1597 : minimaxL 2 [some O, some X, some O, some O, none, some X, none, some X, some X] O X = (some 6, -1) := rfl

theorem mmv_1595 : minimaxL 3 [some O, some X, some O, some O, none, some X, none, none, some X] X O = (some 6, 0) := by
  rw [minimaxL_succ 2 [some O, some X, some O, some O, none, some X, none, none, some X] X O [4, 6, 7] rfl rfl (List.cons_ne_nil _ _)]
  show pickBest [(4, (minimaxL 2 [some O, some X, some O, some O, some X, some X, none, none, some X] O X).2), (6, (minimaxL 2 [some O, some X, some O, some O, none, some X, some X, none, some X] O X).2), (7, (minimaxL 2 [some O, some X, some O, some O, none, some X, none, some X, some X] O X).2)] X = (some 6, 0)
  rw [mmv_1596, mmv_1576, mmv_1597]
  rfl

theorem mmv_1598 : minimaxL 3 [some O, some X, some O, none, some O, some X, none, none, some X] X O = (some 6, 0) := by
  rw [minimaxL_succ 2 [some O, some X, some O, none, some O, some X, none, none, some X] X O [3, 6, 7] rfl rfl (List.cons_ne_nil _ _)]
  show pickBest [(3, (minimaxL 2 [some O, some X, some O, some X, some O, some X, none, none, some X] O X).2), (6, (minimaxL 2 [some O, some X, some O, none, some O, some X, some X, none, some X] O X).2), (7, (minimaxL 2 [some O, some X, some O, none, some O, some X, none, some X, some X] O X).2)] X = (some 6, 0)
  rw [mmv_1391, mmv_1581, mmv_1591]
  rfl

theorem mmv_1600 : minimaxL 2 [some O, some X, some O, none, some X, some X, some O, none, some X] O X = (some 3, -1) := rfl

theorem mmv_1601 : minimaxL 2 [some O, some X, some O, none, none, some X, some O, some X, some X] O X = (some 3, -1) := rfl

theorem mmv_1599 : minimaxL 3 [some O, some X, some O, none, none, some X, some O, none, some X] X O = (some 7, -1) := by
  rw [minimaxL_succ 2 [some O, some X, some O, none, none, some X, some O, none, some X] X O [3, 4, 7] rfl rfl (List.cons_ne_nil _ _)]
  show pickBest [(3, (minimaxL 2 [some O, some X, some O, some X, none, some X, some O, none, some X] O X).2), (4, (minimaxL 2 [some O, some X, some O, none, some X, some X, some O, none, some X] O X).2), (7, (minimaxL 2 [some O, some X, some O, none, none, some X, some O, some X, some X] O X).2)] X = (some 7, -1)
  rw [mmv_1438, mmv_1600, mmv_1601]
  rfl

theorem mmv_1602 : minimaxL 3 [some O, some X, some O, none, none, some X, none, some O, some X] X O = (some 6, 0) := by
  rw [minimaxL_succ 2 [some O, some X, some O, none, none, some X, none, some O, some X] X O [3, 4, 6] rfl rfl (List.cons_ne_nil _ _)]
  show pickBest [(3, (minimaxL 2 [some O, some X, some O, some X, none, some X, none, some O, some X] O X).2), (4, (minimaxL 2 [some O, some X, some O, none, some X, some X, none, some O, some X] O X).2), (6, (minimaxL 2 [some O, some X, some O, none, none, some X, some X, some O, some X] O X).2)] X = (some 6, 0)
  rw [mmv_1442, mmv_1551, mmv_1584]
  rfl

theorem mmv_1594 : minimaxL 4 [some O, some X, some O, none, none, some X, none, none, some X] O X = (some 6, -1) := by
  rw [minimaxL_succ 3 [some O, some X, some O, none, none, some X, none, none, some X] O X [3, 4, 6, 7] rfl rfl (List.cons_ne_nil _ _)]
  show pickBest [(3, (minimaxL 3 [some O, some X, some O, some O, none, some X, none, none, some X] X O).2), (4, (minimaxL 3 [some O, some X, some O, none, some O, some X, none, none, some X] X O).2), (6, (minimaxL 3 [some O, some X, some O, none, none, some X, some O, none, some X] X O).2), (7, (minimaxL 3 [some O, some X, some O, none, none, some X, none, some O, some X] X O).2)] O = (some 6, -1)
  rw [mmv_1595, mmv_1598, mmv_1599, mmv_1602]
  rfl

theorem mmv_1564 : minimaxL 5 [some O, some X, some O, none, none, some X, none, none, none] X O = (some 4, 1) := by
  rw [minimaxL_succ 4 [some O, some X, some O, none, none, some X, none, none, none] X O [3, 4, 6, 7, 8] rfl rfl (List.cons_ne_nil _ _)]
  show pickBest [(3, (minimaxL 4 [some O, some X, some O, some X, none, some X, none, none, none] O X).2), (4, (minimaxL 4 [some O, some X, some O, none, some X, some X, none, none, none] O X).2), (6, (minimaxL 4 [some O, some X, some O, none, none, some X, some X, none, none] O X).2), (7, (minimaxL 4 [some O, some X, some O, none, none, some X, none, some X, none] O X).2), (8, (minimaxL 4 [some O, some X, some O, none, none, some X, none, none, some X] O X).2)] X = (some 4, 1)
  rw [mmv_1387, mmv_1565, mmv_1569, mmv_1588, mmv_1594]
  rfl

theorem mmv_1604 : minimaxL 4 [some O, some X, none, some O, some X, some X, none, none, none] O X = (some 6, -1) := rfl

theorem mmv_1607 : minimaxL 2 [some O, some X, none, some O, some O, some X, some X, some X, none] O X = (some 8, -1) := rfl

theorem mmv_1609 : minimaxL 1 [some O, some X, none, some O, some O, some X, some X, some O, some X] X O = (some 2, 1) := rfl

theorem mmv_1608 : minimaxL 2 [some O, some X, none, some O, some O, some X, some X, none, some X] O X = (some 2, 1) := by
  rw [minimaxL_succ 1 [some O, some X, none, some O, some O, some X, some X, none, some X] O X [2, 7] rfl rfl (List.cons_ne_nil _ _)]
  show pickBest [(2, (minimaxL 1 [some O, some X, some O, some O, some O, some X, some X, none, some X] X O).2), (7, (minimaxL 1 [some O, some X, none, some O, some O, some X, some X, some O, some X] X O).2)] O = (some 2, 1)
  rw [mmv_1577, mmv_1609]
  rfl

theorem mmv_1606 : minimaxL 3 [some O, some X, none, some O, some O, some X, some X, none, none] X O = (some 8, 1) := by
  rw [minimaxL_succ 2 [some O, some X, none, some O, some O, some X, some X, none, none] X O [2, 7, 8] rfl rfl (List.cons_ne_nil _ _)]
  show pickBest [(2, (minimaxL 2 [some O, some X, some X, some O, some O, some X, some X, none, none] O X).2), (7, (minimaxL 2 [some O, some X, none, some O, some O, some X, some X, some X, none] O X).2), (8, (minimaxL 2 [some O, some X, none, some O, some O, some X, some X, none, some X] O X).2)] X = (some 8, 1)
  rw [mmv_1240, mmv_1607, mmv_1608]
  rfl

theorem mmv_1612 : minimaxL 1 [some O, some X, some X, some O, some O, some X, some X, some O, none] X O = (some 8, 1) := rfl

theorem mmv_1613 : minimaxL 1 [some O, some X, some X, some O, none, some X, some X, some O, some O] X O = (some 4, 1) := rfl

theorem mmv_1611 : minimaxL 2 [some O, some X, some X, some O, none, some X, some X, some O, none] O X = (some 4, 1) := by
  rw [minimaxL_succ 1 [some O, some X, some X, some O, none, some X, some X, some O, none] O X [4, 8] rfl rfl (List.cons_ne_nil _ _)]
  show pickBest [(4, (minimaxL 1 [some O, some X, some X, some O, some O, some X, some X, some O, none] X O).2), (8, (minimaxL 1 [some O, some X, some X, some O, none, some X, some X, some O, some O] X O).2)] O = (some 4, 1)
  rw [mmv_1612, mmv_1613]
  rfl

theorem mmv_1614 : minimaxL 2 [some O, some X, none, some O, none, some X, some X, some O, some X] O X = (some 2, 0) := by
  rw [minimaxL_succ 1 [some O, some X, none, some O, none, some X, some X, some O, some X] O X [2, 4] rfl rfl (List.cons_ne_nil _ _)]
  show pickBest [(2, (minimaxL 1 [some O, some X, some O, some O, none, some X, some X, some O, some X] X O).2), (4, (minimaxL 1 [some O, some X, none, some O, some O, some X, some X, some O, some X] X O).2)] O = (some 2, 0)
  rw [mmv_1578, mmv_1609]
  rfl

theorem mmv_1610 : minimaxL 3 [some O, some X, none, some O, none, some X, some X, some O, none] X O = (some 2, 1) := by
  rw [minimaxL_succ 2 [some O, some X, none, some O, none, some X, some X, some O, none] X O [2, 4, 8] rfl rfl (List.cons_ne_nil _ _)]
  show pickBest [(2, (minimaxL 2 [some O, some X, some X, some O, none, some X, some X, some O, none] O X).2), (4, (minimaxL 2 [some O, some X, none, some O, some X, some X, some X, some O, none] O X).2), (8, (minimaxL 2 [some O, some X, none, some O, none, some X, some X, some O, some X] O X).2)] X = (some 2, 1)
  rw [mmv_1611, mmv_1532, mmv_1614]
  rfl

theorem mmv_1616 : minimaxL 2 [some O, some X, some X, some O, none, some X, some X, none, some O] O X = (some 4, -1) := rfl

theorem mmv_1617 : minimaxL 2 [some O, some X, none, some O, some X, some X, some X, none, some O] O X = (some 2, 1) := by
  rw [minimaxL_succ 1 [some O, some X, none, some O, some X, some X, some X, none, some O] O X [2, 7] rfl rfl (List.cons_ne_nil _ _)]
  show pickBest [(2, (minimaxL 1 [some O, some X, some O, some O, some X, some X, some X, none, some O] X O).2), (7, (minimaxL 1 [some O, some X, none, some O, some X, some X, some X, some O, some O] X O).2)] O = (some 2, 1)
  rw [mmv_1572, mmv_1535]
  rfl

theorem mmv_1618 : minimaxL 2 [some O, some X, none, some O, none, some X, some X, some X, some O] O X = (some 4, -1) := rfl

theorem mmv_1615 : minimaxL 3 [some O, some X, none, some O, none, some X, some X, none, some O] X O = (some 4, 1) := by
  rw [minimaxL_succ 2 [some O, some X, none, some O, none, some X, some X, none, some O] X O [2, 4, 7] rfl rfl (List.cons_ne_nil _ _)]
  show pickBest [(2, (minimaxL 2 [some O, some X, some X, some O, none, some X, some X, none, some O] O X).2), (4, (minimaxL 2 [some O, some X, none, some O, some X, some X, some X, none, some O] O X).2), (7, (minimaxL 2 [some O, some X, none, some O, none, some X, some X, some X, some O] O X).2)] X = (some 4, 1)
  rw [mmv_1616, mmv_1617, mmv_1618]
  rfl

theorem mmv_1605 : minimaxL 4 [some O, some X, none, some O, none, some X, some X, none, none] O X = (some 2, 1) := by
  rw [minimaxL_succ 3 [some O, some X, none, some O, none, some X, some X, none, none] O X [2, 4, 7, 8] rfl rfl (List.cons_ne_nil _ _)]
  show pickBest [(2, (minimaxL 3 [some O, some X, some O, some O, none, some X, some X, none, none] X O).2), (4, (minimaxL 3 [some O, some X, none, some O, some O, some X, some X, none, none] X O).2), (7, (minimaxL 3 [some O, some X, none, some O, none, some X, some X, some O, none] X O).2), (8, (minimaxL 3 [some O, some X, none, some O, none, some X, some X, none, some O] X O).2)] O = (some 2, 1)
  rw [mmv_1570, mmv_1606, mmv_1610, mmv_1615]
  rfl

theorem mmv_1619 : minimaxL 4 [some O, some X, none, some O, none, some X, none, some X, none] O X = (some 6, -1) := rfl

theorem mmv_1620 : minimaxL 4 [some O, some X, none, some O, none, some X, none, none, some X] O X = (some 6, -1) := rfl

theorem mmv_1603 : minimaxL 5 [some O, some X, none, some O, none, some X, none, none, none] X O = (some 6, 1) := by
  rw [minimaxL_succ 4 [some O, some X, none, some O, none, some X, none, none, none] X O [2, 4, 6, 7, 8] rfl rfl (List.cons_ne_nil _ _)]
  show pickBest [(2, (minimaxL 4 [some O, some X, some X, some O, none, some X, none, none, none] O X).2), (4, (minimaxL 4 [some O, some X, none, some O, some X, some X, none, none, none] O X).2), (6, (minimaxL 4 [some O, some X, none, some O, none, some X, some X, none, none] O X).2), (7, (minimaxL 4 [some O, some X, none, some O, none, some X, none, some X, none] O X).2), (8, (minimaxL 4 [some O, some X, none, some O, none, some X, none, none, some X] O X).2)] X = (some 6, 1)
  rw [mmv_1237, mmv_1604, mmv_1605, mmv_1619, mmv_1620]
  rfl

theorem mmv_1622 : minimaxL 4 [some O, some X, none, none, some O, some X, some X, none, none] O X = (some 8, -1) := rfl

theorem mmv_1623 : minimaxL 4 [some O, some X, none, none, some O, some X, none, some X, none] O X = (some 8, -1) := rfl

theorem mmv_1625 : minimaxL 3 [some O, some X, none, some O, some O, some X, none, none, some X] X O = (some 2, 1) := rfl

theorem mmv_1626 : minimaxL 3 [some O, some X, none, none, some O, some X, some O, none, some X] X O = (some 2, 1) := rfl

theorem mmv_1627 : minimaxL 3 [some O, some X, none, none, some O, some X, none, some O, some X] X O = (some 2, 1) := rfl

theorem mmv_1624 : minimaxL 4 [some O, some X, none, none, some O, some X, none, none, some X] O X = (some 2, 0) := by
  rw [minimaxL_succ 3 [some O, some X, none, none, some O, some X, none, none, some X] O X [2, 3, 6, 7] rfl rfl (List.cons_ne_nil _ _)]
  show pickBest [(2, (minimaxL 3 [some O, some X, some O, none, some O, some X, none, none, some X] X O).2), (3, (minimaxL 3 [some O, some X, none, some O, some O, some X, none, none, some X] X O).2), (6, (minimaxL 3 [some O, some X, none, none, some O, some X, some O, none, some X] X O).2), (7, (minimaxL 3 [some O, some X, none, none, some O, some X, none, some O, some X] X O).2)] O = (some 2, 0)
  rw [mmv_1598, mmv_1625, mmv_1626, mmv_1627]
  rfl

theorem mmv_1621 : minimaxL 5 [some O, some X, none, none, some O, some X, none, none, none] X O = (some 8, 0) := by
  rw [minimaxL_succ 4 [some O, some X, none, none, some O, some X, none, none, none] X O [2, 3, 6, 7, 8] rfl rfl (List.cons_ne_nil _ _)]
  show pickBest [(2, (minimaxL 4 [some O, some X, some X, none, some O, some X, none, none, none] O X).2), (3, (minimaxL 4 [some O, some X, none, some X, some O, some X, none, none, none] O X).2), (6, (minimaxL 4 [some O, some X, none, none, some O, some X, some X, none, none] O X).2), (7, (minimaxL 4 [some O, some X, none, none, some O, some X, none, some X, none] O X).2), (8, (minimaxL 4 [some O, some X, none, none, some O, some X, none, none, some X] O X).2)] X = (some 8, 0)
  rw [mmv_1250, mmv_1446, mmv_1622, mmv_1623, mmv_1624]
  rfl

theorem mmv_1629 : minimaxL 4 [some O, some X, none, none, some X, some X, some O, none, none] O X = (some 3, -1) := rfl

theorem mmv_1630 : minimaxL 4 [some O, some X, none, none, none, some X, some O, some X, none] O X = (some 3, -1) := rfl

theorem mmv_1631 : minimaxL 4 [some O, some X, none, none, none, some X, some O, none, some X] O X = (some 3, -1) := rfl

theorem mmv_1628 : minimaxL 5 [some O, some X, none, none, none, some X, some O, none, none] X O = (some 8, -1) := by
  rw [minimaxL_succ 4 [some O, some X, none, none, none, some X, some O, none, none] X O [2, 3, 4, 7, 8] rfl rfl (List.cons_ne_nil _ _)]
  show pickBest [(2, (minimaxL 4 [some O, some X, some X, none, none, some X, some O, none, none] O X).2), (3, (minimaxL 4 [some O, some X, none, some X, none, some X, some O, none, none] O X).2), (4, (minimaxL 4 [some O, some X, none, none, some X, some X, some O, none, none] O X).2), (7, (minimaxL 4 [some O, some X, none, none, none, some X, some O, some X, none] O X).2), (8, (minimaxL 4 [some O, some X, none, none, none, some X, some O, none, some X] O X).2)] X = (some 8, -1)
  rw [mmv_1337, mmv_1492, mmv_1629, mmv_1630, mmv_1631]
  rfl

theorem mmv_1635 : minimaxL 2 [some O, some X, none, none, some O, some X, some X, some O, some X] O X = (some 2, 0) := by
  rw [minimaxL_succ 1 [some O, some X, none, none, some O, some X, some X, some O, some X] O X [2, 3] rfl rfl (List.cons_ne_nil _ _)]
  show pickBest [(2, (minimaxL 1 [some O, some X, some O, none, some O, some X, some X, some O, some X] X O).2), (3, (minimaxL 1 [some O, some X, none, some O, some O, some X, some X, some O, some X] X O).2)] O = (some 2, 0)
  rw [mmv_1582, mmv_1609]
  rfl

theorem mmv_1634 : minimaxL 3 [some O, some X, none, none, some O, some X, some X, some O, none] X O = (some 8, 0) := by
  rw [minimaxL_succ 2 [some O, some X, none, none, some O, some X, some X, some O, none] X O [2, 3, 8] rfl rfl (List.cons_ne_nil _ _)]
  show pickBest [(2, (minimaxL 2 [some O, some X, some X, none, some O, some X, some X, some O, none] O X).2), (3, (minimaxL 2 [some O, some X, none, some X, some O, some X, some X, some O, none] O X).2), (8, (minimaxL 2 [some O, some X, none, none, some O, some X, some X, some O, some X] O X).2)] X = (some 8, 0)
  rw [mmv_1365, mmv_1509, mmv_1635]
  rfl

theorem mmv_1637 : minimaxL 2 [some O, some X, none, none, some X, some X, some X, some O, some O] O X = (some 2, 1) := by
  rw [minimaxL_succ 1 [some O, some X, none, none, some X, some X, some X, some O, some O] O X [2, 3] rfl rfl (List.cons_ne_nil _ _)]
  show pickBest [(2, (minimaxL 1 [some O, some X, some O, none, some X, some X, some X, some O, some O] X O).2), (3, (minimaxL 1 [some O, some X, none, some O, some X, some X, some X, some O, some O] X O).2)] O = (some 2, 1)
  rw [mmv_1542, mmv_1535]
  rfl

theorem mmv_1636 : minimaxL 3 [some O, some X, none, none, none, some X, some X, some O, some O] X O = (some 4, 1) := by
  rw [minimaxL_succ 2 [some O, some X, none, none, none, some X, some X, some O, some O] X O [2, 3, 4] rfl rfl (List.cons_ne_nil _ _)]
  show pickBest [(2, (minimaxL 2 [some O, some X, some X, none, none, some X, some X, some O, some O] O X).2), (3, (minimaxL 2 [some O, some X, none, some X, none, some X, some X, some O, some O] O X).2), (4, (minimaxL 2 [some O, some X, none, none, some X, some X, some X, some O, some O] O X).2)] X = (some 4, 1)
  rw [mmv_1362, mmv_1515, mmv_1637]
  rfl

theorem mmv_1633 : minimaxL 4 [some O, some X, none, none, none, some X, some X, some O, none] O X = (some 2, 0) := by
  rw [minimaxL_succ 3 [some O, some X, none, none, none, some X, some X, some O, none] O X [2, 3, 4, 8] rfl rfl (List.cons_ne_nil _ _)]
  show pickBest [(2, (minimaxL 3 [some O, some X, some O, none, none, some X, some X, some O, none] X O).2), (3, (minimaxL 3 [some O, some X, none, some O, none, some X, some X, some O, none] X O).2), (4, (minimaxL 3 [some O, some X, none, none, some O, some X, some X, some O, none] X O).2), (8, (minimaxL 3 [some O, some X, none, none, none, some X, some X, some O, some O] X O).2)] O = (some 2, 0)
  rw [mmv_1583, mmv_1610, mmv_1634, mmv_1636]
  rfl

theorem mmv_1639 : minimaxL 3 [some O, some X, none, some O, none, some X, none, some O, some X] X O = (some 2, 1) := rfl

theorem mmv_1640 : minimaxL 3 [some O, some X, none, none, none, some X, some O, some O, some X] X O = (some 2, 1) := rfl

theorem mmv_1638 : minimaxL 4 [some O, some X, none, none, none, some X, none, some O, some X] O X = (some 2, 0) := by
  rw [minimaxL_succ 3 [some O, some X, none, none, none, some X, none, some O, some X] O X [2, 3, 4, 6] rfl rfl (List.cons_ne_nil _ _)]
  show pickBest [(2, (minimaxL 3 [some O, some X, some O, none, none, some X, none, some O, some X] X O).2), (3, (minimaxL 3 [some O, some X, none, some O, none, some X, none, some O, some X] X O).2), (4, (minimaxL 3 [some O, some X, none, none, some O, some X, none, some O, some X] X O).2), (6, (minimaxL 3 [some O, some X, none, none, none, some X, some O, some O, some X] X O).2)] O = (some 2, 0)
  rw [mmv_1602, mmv_1639, mmv_1627, mmv_1640]
  rfl

theorem mmv_1632 : minimaxL 5 [some O, some X, none, none, none, some X, none, some O, none] X O = (some 8, 0) := by
  rw [minimaxL_succ 4 [some O, some X, none, none, none, some X, none, some O, none] X O [2, 3, 4, 6, 8] rfl rfl (List.cons_ne_nil _ _)]
  show pickBest [(2, (minimaxL 4 [some O, some X, some X, none, none, some X, none, some O, none] O X).2), (3, (minimaxL 4 [some O, some X, none, some X, none, some X, none, some O, none] O X).2), (4, (minimaxL 4 [some O, some X, none, none, some X, some X, none, some O, none] O X).2), (6, (minimaxL 4 [some O, some X, none, none, none, some X, some X, some O, none] O X).2), (8, (minimaxL 4 [some O, some X, none, none, none, some X, none, some O, some X] O X).2)] X = (some 8, 0)
  rw [mmv_1356, mmv_1507, mmv_1528, mmv_1633, mmv_1638]
  rfl

theorem mmv_1643 : minimaxL 3 [some O, some X, none, some O, some X, some X, none, none, some O] X O = (some 7, 1) := rfl

theorem mmv_1644 : minimaxL 3 [some O, some X, none, none, some X, some X, some O, none, some O] X O = (some 7, 1) := rfl

theorem mmv_1642 : minimaxL 4 [some O, some X, none, none, some X, some X, none, none, some O] O X = (some 2, 1) := by
  rw [minimaxL_succ 3 [some O, some X, none, none, some X, some X, none, none, some O] O X [2, 3, 6, 7] rfl rfl (List.cons_ne_nil _ _)]
  show pickBest [(2, (minimaxL 3 [some O, some X, some O, none, some X, some X, none, none, some O] X O).2), (3, (minimaxL 3 [some O, some X, none, some O, some X, some X, none, none, some O] X O).2), (6, (minimaxL 3 [some O, some X, none, none, some X, some X, some O, none, some O] X O).2), (7, (minimaxL 3 [some O, some X, none, none, some X, some X, none, some O, some O] X O).2)] O = (some 2, 1)
  rw [mmv_1568, mmv_1643, mmv_1644, mmv_1538]
  rfl

theorem mmv_1645 : minimaxL 4 [some O, some X, none, none, none, some X, some X, none, some O] O X = (some 4, -1) := rfl

theorem mmv_1646 : minimaxL 4 [some O, some X, none, none, none, some X, none, some X, some O] O X = (some 4, -1) := rfl

theorem mmv_1641 : minimaxL 5 [some O, some X, none, none, none, some X, none, none, some O] X O = (some 4, 1) := by
  rw [minimaxL_succ 4 [some O, some X, none, none, none, some X, none, none, some O] X O [2, 3, 4, 6, 7] rfl rfl (List.cons_ne_nil _ _)]
  show pickBest [(2, (minimaxL 4 [some O, some X, some X, none, none, some X, none, none, some O] O X).2), (3, (minimaxL 4 [some O, some X, none, some X, none, some X, none, none, some O] O X).2), (4, (minimaxL 4 [some O, some X, none, none, some X, some X, none, none, some O] O X).2), (6, (minimaxL 4 [some O, some X, none, none, none, some X, some X, none, some O] O X).2), (7, (minimaxL 4 [some O, some X, none, none, none, some X, none, some X, some O] O X).2)] X = (some 4, 1)
  rw [mmv_1377, mmv_1519, mmv_1642, mmv_1645, mmv_1646]
  rfl

theorem mmv_1563 : minimaxL 6 [some O, some X, none, none, none, some X, none, none, none] O X = (some 6, -1) := by
  rw [minimaxL_succ 5 [some O, some X, none, none, none, some X, none, none, none] O X [2, 3, 4, 6, 7, 8] rfl rfl (List.cons_ne_nil _ _)]
  show pickBest [(2, (minimaxL 5 [some O, some X, some O, none, none, some X, none, none, none] X O).2), (3, (minimaxL 5 [some O, some X, none, some O, none, some X, none, none, none] X O).2), (4, (minimaxL 5 [some O, some X, none, none, some O, some X, none, none, none] X O).2), (6, (minimaxL 5 [some O, some X, none, none, none, some X, some O, none, none] X O).2), (7, (minimaxL 5 [some O, some X, none, none, none, some X, none, some O, none] X O).2), (8, (minimaxL 5 [some O, some X, none, none, none, some X, none, none, some O] X O).2)] O = (some 6, -1)
  rw [mmv_1564, mmv_1603, mmv_1621, mmv_1628, mmv_1632, mmv_1641]
  rfl

theorem mmv_1650 : minimaxL 3 [some O, some X, some O, some O, some X, none, some X, none, none] X O = (some 7, 1) := rfl

theorem mmv_1651 : minimaxL 3 [some O, some X, some O, none, some X, some O, some X, none, none] X O = (some 7, 1) := rfl

theorem mmv_1652 : minimaxL 3 [some O, some X, some O, none, some X, none, some X, none, some O] X O = (some 7, 1) := rfl

theorem mmv_1649 : minimaxL 4 [some O, some X, some O, none, some X, none, some X, none, none] O X = (some 7, 0) := by
  rw [minimaxL_succ 3 [some O, some X, some O, none, some X, none, some X, none, none] O X [3, 5, 7, 8] rfl rfl (List.cons_ne_nil _ _)]
  show pickBest [(3, (minimaxL 3 [some O, some X, some O, some O, some X, none, some X, none, none] X O).2), (5, (minimaxL 3 [some O, some X, some O, none, some X, some O, some X, none, none] X O).2), (7, (minimaxL 3 [some O, some X, some O, none, some X, none, some X, some O, none] X O).2), (8, (minimaxL 3 [some O, some X, some O, none, some X, none, some X, none, some O] X O).2)] O = (some 7, 0)
  rw [mmv_1650, mmv_1651, mmv_1540, mmv_1652]
  rfl

theorem mmv_1654 : minimaxL 3 [some O, some X, some O, some O, none, none, some X, some X, none] X O = (some 4, 1) := rfl

theorem mmv_1655 : minimaxL 3 [some O, some X, some O, none, some O, none, some X, some X, none] X O = (some 8, 1) := rfl

theorem mmv_1656 : minimaxL 3 [some O, some X, some O, none, none, some O, some X, some X, none] X O = (some 4, 1) := rfl

theorem mmv_1657 : minimaxL 3 [some O, some X, some O, none, none, none, some X, some X, some O] X O = (some 4, 1) := rfl

theorem mmv_1653 : minimaxL 4 [some O, some X, some O, none, none, none, some X, some X, none] O X = (some 3, 1) := by
  rw [minimaxL_succ 3 [some O, some X, some O, none, none, none, some X, some X, none] O X [3, 4, 5, 8] rfl rfl (List.cons_ne_nil _ _)]
  show pickBest [(3, (minimaxL 3 [some O, some X, some O, some O, none, none, some X, some X, none] X O).2), (4, (minimaxL 3 [some O, some X, some O, none, some O, none, some X, some X, none] X O).2), (5, (minimaxL 3 [some O, some X, some O, none, none, some O, some X, some X, none] X O).2), (8, (minimaxL 3 [some O, some X, some O, none, none, none, some X, some X, some O] X O).2)] O = (some 3, 1)
  rw [mmv_1654, mmv_1655, mmv_1656, mmv_1657]
  rfl

theorem mmv_1659 : minimaxL 3 [some O, some X, some O, some O, none, none, some X, none, some X] X O = (some 7, 1) := rfl

theorem mmv_1660 : minimaxL 3 [some O, some X, some O, none, some O, none, some X, none, some X] X O = (some 7, 1) := rfl

theorem mmv_1661 : minimaxL 3 [some O, some X, some O, none, none, some O, some X, none, some X] X O = (some 7, 1) := rfl

theorem mmv_1662 : minimaxL 3 [some O, some X, some O, none, none, none, some X, some O, some X] X O = (some 5, 0) := by
  rw [minimaxL_succ 2 [some O, some X, some O, none, none, none, some X, some O, some X] X O [3, 4, 5] rfl rfl (List.cons_ne_nil _ _)]
  show pickBest [(3, (minimaxL 2 [some O, some X, some O, some X, none, none, some X, some O, some X] O X).2), (4, (minimaxL 2 [some O, some X, some O, none, some X, none, some X, some O, some X] O X).2), (5, (minimaxL 2 [some O, some X, some O, none, none, some X, some X, some O, some X] O X).2)] X = (some 5, 0)
  rw [mmv_1415, mmv_1543, mmv_1584]
  rfl

theorem mmv_1658 : minimaxL 4 [some O, some X, some O, none, none, none, some X, none, some X] O X = (some 7, 0) := by
  rw [minimaxL_succ 3 [some O, some X, some O, none, none, none, some X, none, some X] O X [3, 4, 5, 7] rfl rfl (List.cons_ne_nil _ _)]
  show pickBest [(3, (minimaxL 3 [some O, some X, some O, some O, none, none, some X, none, some X] X O).2), (4, (minimaxL 3 [some O, some X, some O, none, some O, none, some X, none, some X] X O).2), (5, (minimaxL 3 [some O, some X, some O, none, none, some O, some X, none, some X] X O).2), (7, (minimaxL 3 [some O, some X, some O, none, none, none, some X, some O, some X] X O).2)] O = (some 7, 0)
  rw [mmv_1659, mmv_1660, mmv_1661, mmv_1662]
  rfl

theorem mmv_1648 : minimaxL 5 [some O, some X, some O, none, none, none, some X, none, none] X O = (some 7, 1) := by
  rw [minimaxL_succ 4 [some O, some X, some O, none, none, none, some X, none, none] X O [3, 4, 5, 7, 8] rfl rfl (List.cons_ne_nil _ _)]
  show pickBest [(3, (minimaxL 4 [some O, some X, some O, some X, none, none, some X, none, none] O X).2), (4, (minimaxL 4 [some O, some X, some O, none, some X, none, some X, none, none] O X).2), (5, (minimaxL 4 [some O, some X, some O, none, none, some X, some X, none, none] O X).2), (7, (minimaxL 4 [some O, some X, some O, none, none, none, some X, some X, none] O X).2), (8, (minimaxL 4 [some O, some X, some O, none, none, none, some X, none, some X] O X).2)] X = (some 7, 1)
  rw [mmv_1395, mmv_1649, mmv_1569, mmv_1653, mmv_1658]
  rfl

theorem mmv_1665 : minimaxL 3 [some O, some X, none, some O, some X, some O, some X, none, none] X O = (some 7, 1) := rfl

theorem mmv_1666 : minimaxL 3 [some O, some X, none, some O, some X, none, some X, none, some O] X O = (some 7, 1) := rfl

theorem mmv_1664 : minimaxL 4 [some O, some X, none, some O, some X, none, some X, none, none] O X = (some 2, 1) := by
  rw [minimaxL_succ 3 [some O, some X, none, some O, some X, none, some X, none, none] O X [2, 5, 7, 8] rfl rfl (List.cons_ne_nil _ _)]
  show pickBest [(2, (minimaxL 3 [some O, some X, some O, some O, some X, none, some X, none, none] X O).2), (5, (minimaxL 3 [some O, some X, none, some O, some X, some O, some X, none, none] X O).2), (7, (minimaxL 3 [some O, some X, none, some O, some X, none, some X, some O, none] X O).2), (8, (minimaxL 3 [some O, some X, none, some O, some X, none, some X, none, some O] X O).2)] O = (some 2, 1)
  rw [mmv_1650, mmv_1665, mmv_1546, mmv_1666]
  rfl

theorem mmv_1668 : minimaxL 3 [some O, some X, none, some O, some O, none, some X, some X, none] X O = (some 8, 1) := rfl

theorem mmv_1669 : minimaxL 3 [some O, some X, none, some O, none, some O, some X, some X, none] X O = (some 4, 1) := rfl

theorem mmv_1670 : minimaxL 3 [some O, some X, none, some O, none, none, some X, some X, some O] X O = (some 4, 1) := rfl

theorem mmv_1667 : minimaxL 4 [some O, some X, none, some O, none, none, some X, some X, none] O X = (some 2, 1) := by
  rw [minimaxL_succ 3 [some O, some X, none, some O, none, none, some X, some X, none] O X [2, 4, 5, 8] rfl rfl (List.cons_ne_nil _ _)]
  show pickBest [(2, (minimaxL 3 [some O, some X, some O, some O, none, none, some X, some X, none] X O).2), (4, (minimaxL 3 [some O, some X, none, some O, some O, none, some X, some X, none] X O).2), (5, (minimaxL 3 [some O, some X, none, some O, none, some O, some X, some X, none] X O).2), (8, (minimaxL 3 [some O, some X, none, some O, none, none, some X, some X, some O] X O).2)] O = (some 2, 1)
  rw [mmv_1654, mmv_1668, mmv_1669, mmv_1670]
  rfl

theorem mmv_1672 : minimaxL 3 [some O, some X, none, some O, some O, none, some X, none, some X] X O = (some 7, 1) := rfl

theorem mmv_1673 : minimaxL 3 [some O, some X, none, some O, none, some O, some X, none, some X] X O = (some 7, 1) := rfl

theorem mmv_1675 : minimaxL 2 [some O, some X, some X, some O, none, none, some X, some O, some X] O X = (some 4, 1) := by
  rw [minimaxL_succ 1 [some O, some X, some X, some O, none, none, some X, some O, some X] O X [4, 5] rfl rfl (List.cons_ne_nil _ _)]
  show pickBest [(4, (minimaxL 1 [some O, some X, some X, some O, some O, none, some X, some O, some X] X O).2), (5, (minimaxL 1 [some O, some X, some X, some O, none, some O, some X, some O, some X] X O).2)] O = (some 4, 1)
  rw [mmv_1367, mmv_1319]
  rfl

theorem mmv_1674 : minimaxL 3 [some O, some X, none, some O, none, none, some X, some O, some X] X O = (some 2, 1) := by
  rw [minimaxL_succ 2 [some O, some X, none, some O, none, none, some X, some O, some X] X O [2, 4, 5] rfl rfl (List.cons_ne_nil _ _)]
  show pickBest [(2, (minimaxL 2 [some O, some X, some X, some O, none, none, some X, some O, some X] O X).2), (4, (minimaxL 2 [some O, some X, none, some O, some X, none, some X, some O, some X] O X).2), (5, (minimaxL 2 [some O, some X, none, some O, none, some X, some X, some O, some X] O X).2)] X = (some 2, 1)
  rw [mmv_1675, mmv_1556, mmv_1614]
  rfl

theorem mmv_1671 : minimaxL 4 [some O, some X, none, some O, none, none, some X, none, some X] O X = (some 2, 1) := by
  rw [minimaxL_succ 3 [some O, some X, none, some O, none, none, some X, none, some X] O X [2, 4, 5, 7] rfl rfl (List.cons_ne_nil _ _)]
  show pickBest [(2, (minimaxL 3 [some O, some X, some O, some O, none, none, some X, none, some X] X O).2), (4, (minimaxL 3 [some O, some X, none, some O, some O, none, some X, none, some X] X O).2), (5, (minimaxL 3 [some O, some X, none, some O, none, some O, some X, none, some X] X O).2), (7, (minimaxL 3 [some O, some X, none, some O, none, none, some X, some O, some X] X O).2)] O = (some 2, 1)
  rw [mmv_1659, mmv_1672, mmv_1673, mmv_1674]
  rfl

theorem mmv_1663 : minimaxL 5 [some O, some X, none, some O, none, none, some X, none, none] X O = (some 8, 1) := by
  rw [minimaxL_succ 4 [some O, some X, none, some O, none, none, some X, none, none] X O [2, 4, 5, 7, 8] rfl rfl (List.cons_ne_nil _ _)]
  show pickBest [(2, (minimaxL 4 [some O, some X, some X, some O, none, none, some X, none, none] O X).2), (4, (minimaxL 4 [some O, some X, none, some O, some X, none, some X, none, none] O X).2), (5, (minimaxL 4 [some O, some X, none, some O, none, some X, some X, none, none] O X).2), (7, (minimaxL 4 [some O, some X, none, some O, none, none, some X, some X, none] O X).2), (8, (minimaxL 4 [some O, some X, none, some O, none, none, some X, none, some X] O X).2)] X = (some 8, 1)
  rw [mmv_1238, mmv_1664, mmv_1605, mmv_1667, mmv_1671]
  rfl

theorem mmv_1677 : minimaxL 4 [some O, some X, none, none, some O, none, some X, some X, none] O X = (some 8, -1) := rfl

theorem mmv_1679 : minimaxL 3 [some O, some X, none, none, some O, some O, some X, none, some X] X O = (some 7, 1) := rfl

theorem mmv_1680 : minimaxL 3 [some O, some X, none, none, some O, none, some X, some O, some X] X O = (some 5, 0) := by
  rw [minimaxL_succ 2 [some O, some X, none, none, some O, none, some X, some O, some X] X O [2, 3, 5] rfl rfl (List.cons_ne_nil _ _)]
  show pickBest [(2, (minimaxL 2 [some O, some X, some X, none, some O, none, some X, some O, some X] O X).2), (3, (minimaxL 2 [some O, some X, none, some X, some O, none, some X, some O, some X] O X).2), (5, (minimaxL 2 [some O, some X, none, none, some O, some X, some X, some O, some X] O X).2)] X = (some 5, 0)
  rw [mmv_1366, mmv_1461, mmv_1635]
  rfl

theorem mmv_1678 : minimaxL 4 [some O, some X, none, none, some O, none, some X, none, some X] O X = (some 7, 0) := by
  rw [minimaxL_succ 3 [some O, some X, none, none, some O, none, some X, none, some X] O X [2, 3, 5, 7] rfl rfl (List.cons_ne_nil _ _)]
  show pickBest [(2, (minimaxL 3 [some O, some X, some O, none, some O, none, some X, none, some X] X O).2), (3, (minimaxL 3 [some O, some X, none, some O, some O, none, some X, none, some X] X O).2), (5, (minimaxL 3 [some O, some X, none, none, some O, some O, some X, none, some X] X O).2), (7, (minimaxL 3 [some O, some X, none, none, some O, none, some X, some O, some X] X O).2)] O = (some 7, 0)
  rw [mmv_1660, mmv_1672, mmv_1679, mmv_1680]
  rfl

theorem mmv_1676 : minimaxL 5 [some O, some X, none, none, some O, none, some X, none, none] X O = (some 8, 0) := by
  rw [minimaxL_succ 4 [some O, some X, none, none, some O, none, some X, none, none] X O [2, 3, 5, 7, 8] rfl rfl (List.cons_ne_nil _ _)]
  show pickBest [(2, (minimaxL 4 [some O, some X, some X, none, some O, none, some X, none, none] O X).2), (3, (minimaxL 4 [some O, some X, none, some X, some O, none, some X, none, none] O X).2), (5, (minimaxL 4 [some O, some X, none, none, some O, some X, some X, none, none] O X).2), (7, (minimaxL 4 [some O, some X, none, none, some O, none, some X, some X, none] O X).2), (8, (minimaxL 4 [some O, some X, none, none, some O, none, some X, none, some X] O X).2)] X = (some 8, 0)
  rw [mmv_1251, mmv_1447, mmv_1622, mmv_1677, mmv_1678]
  rfl

theorem mmv_1683 : minimaxL 3 [some O, some X, none, none, some X, some O, some X, none, some O] X O = (some 7, 1) := rfl

theorem mmv_1682 : minimaxL 4 [some O, some X, none, none, some X, some O, some X, none, none] O X = (some 2, 1) := by
  rw [minimaxL_succ 3 [some O, some X, none, none, some X, some O, some X, none, none] O X [2, 3, 7, 8] rfl rfl (List.cons_ne_nil _ _)]
  show pickBest [(2, (minimaxL 3 [some O, some X, some O, none, some X, some O, some X, none, none] X O).2), (3, (minimaxL 3 [some O, some X, none, some O, some X, some O, some X, none, none] X O).2), (7, (minimaxL 3 [some O, some X, none, none, some X, some O, some X, some O, none] X O).2), (8, (minimaxL 3 [some O, some X, none, none, some X, some O, some X, none, some O] X O).2)] O = (some 2, 1)
  rw [mmv_1651, mmv_1665, mmv_1547, mmv_1683]
  rfl

theorem mmv_1685 : minimaxL 3 [some O, some X, none, none, some O, some O, some X, some X, none] X O = (some 8, 1) := rfl

theorem mmv_1686 : minimaxL 3 [some O, some X, none, none, none, some O, some X, some X, some O] X O = (some 4, 1) := rfl

theorem mmv_1684 : minimaxL 4 [some O, some X, none, none, none, some O, some X, some X, none] O X = (some 2, 1) := by
  rw [minimaxL_succ 3 [some O, some X, none, none, none, some O, some X, some X, none] O X [2, 3, 4, 8] rfl rfl (List.cons_ne_nil _ _)]
  show pickBest [(2, (minimaxL 3 [some O, some X, some O, none, none, some O, some X, some X, none] X O).2), (3, (minimaxL 3 [some O, some X, none, some O, none, some O, some X, some X, none] X O).2), (4, (minimaxL 3 [some O, some X, none, none, some O, some O, some X, some X, none] X O).2), (8, (minimaxL 3 [some O, some X, none, none, none, some O, some X, some X, some O] X O).2)] O = (some 2, 1)
  rw [mmv_1656, mmv_1669, mmv_1685, mmv_1686]
  rfl

theorem mmv_1688 : minimaxL 3 [some O, some X, none, none, none, some O, some X, some O, some X] X O = (some 4, 0) := by
  rw [minimaxL_succ 2 [some O, some X, none, none, none, some O, some X, some O, some X] X O [2, 3, 4] rfl rfl (List.cons_ne_nil _ _)]
  show pickBest [(2, (minimaxL 2 [some O, some X, some X, none, none, some O, some X, some O, some X] O X).2), (3, (minimaxL 2 [some O, some X, none, some X, none, some O, some X, some O, some X] O X).2), (4, (minimaxL 2 [some O, some X, none, none, some X, some O, some X, some O, some X] O X).2)] X = (some 4, 0)
  rw [mmv_1318, mmv_1475, mmv_1559]
  rfl

theorem mmv_1687 : minimaxL 4 [some O, some X, none, none, none, some O, some X, none, some X] O X = (some 7, 0) := by
  rw [minimaxL_succ 3 [some O, some X, none, none, none, some O, some X, none, some X] O X [2, 3, 4, 7] rfl rfl (List.cons_ne_nil _ _)]
  show pickBest [(2, (minimaxL 3 [some O, some X, some O, none, none, some O, some X, none, some X] X O).2), (3, (minimaxL 3 [some O, some X, none, some O, none, some O, some X, none, some X] X O).2), (4, (minimaxL 3 [some O, some X, none, none, some O, some O, some X, none, some X] X O).2), (7, (minimaxL 3 [some O, some X, none, none, none, some O, some X, some O, some X] X O).2)] O = (some 7, 0)
  rw [mmv_1661, mmv_1673, mmv_1679, mmv_1688]
  rfl

theorem mmv_1681 : minimaxL 5 [some O, some X, none, none, none, some O, some X, none, none] X O = (some 7, 1) := by
  rw [minimaxL_succ 4 [some O, some X, none, none, none, some O, some X, none, none] X O [2, 3, 4, 7, 8] rfl rfl (List.cons_ne_nil _ _)]
  show pickBest [(2, (minimaxL 4 [some O, some X, some X, none, none, some O, some X, none, none] O X).2), (3, (minimaxL 4 [some O, some X, none, some X, none, some O, some X, none, none] O X).2), (4, (minimaxL 4 [some O, some X, none, none, some X, some O, some X, none, none] O X).2), (7, (minimaxL 4 [some O, some X, none, none, none, some O, some X, some X, none] O X).2), (8, (minimaxL 4 [some O, some X, none, none, none, some O, some X, none, some X] O X).2)] X = (some 7, 1)
  rw [mmv_1296, mmv_1471, mmv_1682, mmv_1684, mmv_1687]
  rfl

theorem mmv_1690 : minimaxL 4 [some O, some X, none, none, none, none, some X, some O, some X] O X = (some 2, 0) := by
  rw [minimaxL_succ 3 [some O, some X, none, none, none, none, some X, some O, some X] O X [2, 3, 4, 5] rfl rfl (List.cons_ne_nil _ _)]
  show pickBest [(2, (minimaxL 3 [some O, some X, some O, none, none, none, some X, some O, some X] X O).2), (3, (minimaxL 3 [some O, some X, none, some O, none, none, some X, some O, some X] X O).2), (4, (minimaxL 3 [some O, some X, none, none, some O, none, some X, some O, some X] X O).2), (5, (minimaxL 3 [some O, some X, none, none, none, some O, some X, some O, some X] X O).2)] O = (some 2, 0)
  rw [mmv_1662, mmv_1674, mmv_1680, mmv_1688]
  rfl

theorem mmv_1689 : minimaxL 5 [some O, some X, none, none, none, none, some X, some O, none] X O = (some 8, 0) := by
  rw [minimaxL_succ 4 [some O, some X, none, none, none, none, some X, some O, none] X O [2, 3, 4, 5, 8] rfl rfl (List.cons_ne_nil _ _)]
  show pickBest [(2, (minimaxL 4 [some O, some X, some X, none, none, none, some X, some O, none] O X).2), (3, (minimaxL 4 [some O, some X, none, some X, none, none, some X, some O, none] O X).2), (4, (minimaxL 4 [some O, some X, none, none, some X, none, some X, some O, none] O X).2), (5, (minimaxL 4 [some O, some X, none, none, none, some X, some X, some O, none] O X).2), (8, (minimaxL 4 [some O, some X, none, none, none, none, some X, some O, some X] O X).2)] X = (some 8, 0)
  rw [mmv_1363, mmv_1511, mmv_1539, mmv_1633, mmv_1690]
  rfl

theorem mmv_1692 : minimaxL 4 [some O, some X, none, none, some X, none, some X, none, some O] O X = (some 2, 1) := by
  rw [minimaxL_succ 3 [some O, some X, none, none, some X, none, some X, none, some O] O X [2, 3, 5, 7] rfl rfl (List.cons_ne_nil _ _)]
  show pickBest [(2, (minimaxL 3 [some O, some X, some O, none, some X, none, some X, none, some O] X O).2), (3, (minimaxL 3 [some O, some X, none, some O, some X, none, some X, none, some O] X O).2), (5, (minimaxL 3 [some O, some X, none, none, some X, some O, some X, none, some O] X O).2), (7, (minimaxL 3 [some O, some X, none, none, some X, none, some X, some O, some O] X O).2)] O = (some 2, 1)
  rw [mmv_1652, mmv_1666, mmv_1683, mmv_1548]
  rfl

theorem mmv_1693 : minimaxL 4 [some O, some X, none, none, none, none, some X, some X, some O] O X = (some 4, -1) := rfl

theorem mmv_1691 : minimaxL 5 [some O, some X, none, none, none, none, some X, none, some O] X O = (some 4, 1) := by
  rw [minimaxL_succ 4 [some O, some X, none, none, none, none, some X, none, some O] X O [2, 3, 4, 5, 7] rfl rfl (List.cons_ne_nil _ _)]
  show pickBest [(2, (minimaxL 4 [some O, some X, some X, none, none, none, some X, none, some O] O X).2), (3, (minimaxL 4 [some O, some X, none, some X, none, none, some X, none, some O] O X).2), (4, (minimaxL 4 [some O, some X, none, none, some X, none, some X, none, some O] O X).2), (5, (minimaxL 4 [some O, some X, none, none, none, some X, some X, none, some O] O X).2), (7, (minimaxL 4 [some O, some X, none, none, none, none, some X, some X, some O] O X).2)] X = (some 4, 1)
  rw [mmv_1378, mmv_1520, mmv_1692, mmv_1645, mmv_1693]
  rfl

theorem mmv_1647 : minimaxL 6 [some O, some X, none, none, none, none, some X, none, none] O X = (some 4, 0) := by
  rw [minimaxL_succ 5 [some O, some X, none, none, none, none, some X, none, none] O X [2, 3, 4, 5, 7, 8] rfl rfl (List.cons_ne_nil _ _)]
  show pickBest [(2, (minimaxL 5 [some O, some X, some O, none, none, none, some X, none, none] X O).2), (3, (minimaxL 5 [some O, some X, none, some O, none, none, some X, none, none] X O).2), (4, (minimaxL 5 [some O, some X, none, none, some O, none, some X, none, none] X O).2), (5, (minimaxL 5 [some O, some X, none, none, none, some O, some X, none, none] X O).2), (7, (minimaxL 5 [some O, some X, none, none, none, none, some X, some O, none] X O).2), (8, (minimaxL 5 [some O, some X, none, none, none, none, some X, none, some O] X O).2)] O = (some 4, 0)
  rw [mmv_1648, mmv_1663, mmv_1676, mmv_1681, mmv_1689, mmv_1691]
  rfl

theorem mmv_1695 : minimaxL 5 [some O, some X, some O, none, none, none, none, some X, none] X O = (some 4, 1) := rfl

theorem mmv_1696 : minimaxL 5 [some O, some X, none, some O, none, none, none, some X, none] X O = (some 4, 1) := rfl

theorem mmv_1699 : minimaxL 3 [some O, some X, some O, none, some O, none, none, some X, some X] X O = (some 6, 1) := rfl

theorem mmv_1700 : minimaxL 3 [some O, some X, none, some O, some O, none, none, some X, some X] X O = (some 6, 1) := rfl

theorem mmv_1701 : minimaxL 3 [some O, some X, none, none, some O, some O, none, some X, some X] X O = (some 6, 1) := rfl

theorem mmv_1703 : minimaxL 2 [some O, some X, some X, none, some O, none, some O, some X, some X] O X = (some 3, -1) := rfl

theorem mmv_1704 : minimaxL 2 [some O, some X, none, none, some O, some X, some O, some X, some X] O X = (some 3, -1) := rfl

theorem mmv_1702 : minimaxL 3 [some O, some X, none, none, some O, none, some O, some X, some X] X O = (some 5, -1) := by
  rw [minimaxL_succ 2 [some O, some X, none, none, some O, none, some O, some X, some X] X O [2, 3, 5] rfl rfl (List.cons_ne_nil _ _)]
  show pickBest [(2, (minimaxL 2 [some O, some X, some X, none, some O, none, some O, some X, some X] O X).2), (3, (minimaxL 2 [some O, some X, none, some X, some O, none, some O, some X, some X] O X).2), (5, (minimaxL 2 [some O, some X, none, none, some O, some X, some O, some X, some X] O X).2)] X = (some 5, -1)
  rw [mmv_1703, mmv_1457, mmv_1704]
  rfl

theorem mmv_1698 : minimaxL 4 [some O, some X, none, none, some O, none, none, some X, some X] O X = (some 6, -1) := by
  rw [minimaxL_succ 3 [some O, some X, none, none, some O, none, none, some X, some X] O X [2, 3, 5, 6] rfl rfl (List.cons_ne_nil _ _)]
  show pickBest [(2, (minimaxL 3 [some O, some X, some O, none, some O, none, none, some X, some X] X O).2), (3, (minimaxL 3 [some O, some X, none, some O, some O, none, none, some X, some X] X O).2), (5, (minimaxL 3 [some O, some X, none, none, some O, some O, none, some X, some X] X O).2), (6, (minimaxL 3 [some O, some X, none, none, some O, none, some O, some X, some X] X O).2)] O = (some 6, -1)
  rw [mmv_1699, mmv_1700, mmv_1701, mmv_1702]
  rfl

theorem mmv_1697 : minimaxL 5 [some O, some X, none, none, some O, none, none, some X, none] X O = (some 8, -1) := by
  rw [minimaxL_succ 4 [some O, some X, none, none, some O, none, none, some X, none] X O [2, 3, 5, 6, 8] rfl rfl (List.cons_ne_nil _ _)]
  show pickBest [(2, (minimaxL 4 [some O, some X, some X, none, some O, none, none, some X, none] O X).2), (3, (minimaxL 4 [some O, some X, none, some X, some O, none, none, some X, none] O X).2), (5, (minimaxL 4 [some O, some X, none, none, some O, some X, none, some X, none] O X).2), (6, (minimaxL 4 [some O, some X, none, none, some O, none, some X, some X, none] O X).2), (8, (minimaxL 4 [some O, some X, none, none, some O, none, none, some X, some X] O X).2)] X = (some 8, -1)
  rw [mmv_1252, mmv_1448, mmv_1623, mmv_1677, mmv_1698]
  rfl

theorem mmv_1705 : minimaxL 5 [some O, some X, none, none, none, some O, none, some X, none] X O = (some 4, 1) := rfl

theorem mmv_1706 : minimaxL 5 [some O, some X, none, none, none, none, some O, some X, none] X O = (some 4, 1) := rfl

theorem mmv_1707 : minimaxL 5 [some O, some X, none, none, none, none, none, some X, some O] X O = (some 4, 1) := rfl

theorem mmv_1694 : minimaxL 6 [some O, some X, none, none, none, none, none, some X, none] O X = (some 4, -1) := by
  rw [minimaxL_succ 5 [some O, some X, none, none, none, none, none, some X, none] O X [2, 3, 4, 5, 6, 8] rfl rfl (List.cons_ne_nil _ _)]
  show pickBest [(2, (minimaxL 5 [some O, some X, some O, none, none, none, none, some X, none] X O).2), (3, (minimaxL 5 [some O, some X, none, some O, none, none, none, some X, none] X O).2), (4, (minimaxL 5 [some O, some X, none, none, some O, none, none, some X, none] X O).2), (5, (minimaxL 5 [some O, some X, none, none, none, some O, none, some X, none] X O).2), (6, (minimaxL 5 [some O, some X, none, none, none, none, some O, some X, none] X O).2), (8, (minimaxL 5 [some O, some X, none, none, none, none, none, some X, some O] X O).2)] O = (some 4, -1)
  rw [mmv_1695, mmv_1696, mmv_1697, mmv_1705, mmv_1706, mmv_1707]
  rfl

theorem mmv_1711 : minimaxL 3 [some O, some X, some O, some O, some X, none, none, none, some X] X O = (some 7, 1) := rfl

theorem mmv_1712 : minimaxL 3 [some O, some X, some O, none, some X, some O, none, none, some X] X O = (some 7, 1) := rfl

theorem mmv_1713 : minimaxL 3 [some O, some X, some O, none, some X, none, some O, none, some X] X O = (some 7, 1) := rfl

theorem mmv_1710 : minimaxL 4 [some O, some X, some O, none, some X, none, none, none, some X] O X = (some 7, 0) := by
  rw [minimaxL_succ 3 [some O, some X, some O, none, some X, none, none, none, some X] O X [3, 5, 6, 7] rfl rfl (List.cons_ne_nil _ _)]
  show pickBest [(3, (minimaxL 3 [some O, some X, some O, some O, some X, none, none, none, some X] X O).2), (5, (minimaxL 3 [some O, some X, some O, none, some X, some O, none, none, some X] X O).2), (6, (minimaxL 3 [some O, some X, some O, none, some X, none, some O, none, some X] X O).2), (7, (minimaxL 3 [some O, some X, some O, none, some X, none, none, some O, some X] X O).2)] O = (some 7, 0)
  rw [mmv_1711, mmv_1712, mmv_1713, mmv_1550]
  rfl

theorem mmv_1715 : minimaxL 3 [some O, some X, some O, some O, none, none, none, some X, some X] X O = (some 4, 1) := rfl

theorem mmv_1716 : minimaxL 3 [some O, some X, some O, none, none, some O, none, some X, some X] X O = (some 4, 1) := rfl

theorem mmv_1717 : minimaxL 3 [some O, some X, some O, none, none, none, some O, some X, some X] X O = (some 4, 1) := rfl

theorem mmv_1714 : minimaxL 4 [some O, some X, some O, none, none, none, none, some X, some X] O X = (some 3, 1) := by
  rw [minimaxL_succ 3 [some O, some X, some O, none, none, none, none, some X, some X] O X [3, 4, 5, 6] rfl rfl (List.cons_ne_nil _ _)]
  show pickBest [(3, (minimaxL 3 [some O, some X, some O, some O, none, none, none, some X, some X] X O).2), (4, (minimaxL 3 [some O, some X, some O, none, some O, none, none, some X, some X] X O).2), (5, (minimaxL 3 [some O, some X, some O, none, none, some O, none, some X, some X] X O).2), (6, (minimaxL 3 [some O, some X, some O, none, none, none, some O, some X, some X] X O).2)] O = (some 3, 1)
  rw [mmv_1715, mmv_1699, mmv_1716, mmv_1717]
  rfl

theorem mmv_1709 : minimaxL 5 [some O, some X, some O, none, none, none, none, none, some X] X O = (some 7, 1) := by
  rw [minimaxL_succ 4 [some O, some X, some O, none, none, none, none, none, some X] X O [3, 4, 5, 6, 7] rfl rfl (List.cons_ne_nil _ _)]
  show pickBest [(3, (minimaxL 4 [some O, some X, some O, some X, none, none, none, none, some X] O X).2), (4, (minimaxL 4 [some O, some X, some O, none, some X, none, none, none, some X] O X).2), (5, (minimaxL 4 [some O, some X, some O, none, none, some X, none, none, some X] O X).2), (6, (minimaxL 4 [some O, some X, some O, none, none, none, some X, none, some X] O X).2), (7, (minimaxL 4 [some O, some X, some O, none, none, none, none, some X, some X] O X).2)] X = (some 7, 1)
  rw [mmv_1426, mmv_1710, mmv_1594, mmv_1658, mmv_1714]
  rfl

theorem mmv_1719 : minimaxL 4 [some O, some X, none, some O, some X, none, none, none, some X] O X = (some 6, -1) := rfl

theorem mmv_1720 : minimaxL 4 [some O, some X, none, some O, none, none, none, some X, some X] O X = (some 6, -1) := rfl

theorem mmv_1718 : minimaxL 5 [some O, some X, none, some O, none, none, none, none, some X] X O = (some 6, 1) := by
  rw [minimaxL_succ 4 [some O, some X, none, some O, none, none, none, none, some X] X O [2, 4, 5, 6, 7] rfl rfl (List.cons_ne_nil _ _)]
  show pickBest [(2, (minimaxL 4 [some O, some X, some X, some O, none, none, none, none, some X] O X).2), (4, (minimaxL 4 [some O, some X, none, some O, some X, none, none, none, some X] O X).2), (5, (minimaxL 4 [some O, some X, none, some O, none, some X, none, none, some X] O X).2), (6, (minimaxL 4 [some O, some X, none, some O, none, none, some X, none, some X] O X).2), (7, (minimaxL 4 [some O, some X, none, some O, none, none, none, some X, some X] O X).2)] X = (some 6, 1)
  rw [mmv_1247, mmv_1719, mmv_1620, mmv_1671, mmv_1720]
  rfl

theorem mmv_1721 : minimaxL 5 [some O, some X, none, none, some O, none, none, none, some X] X O = (some 6, 0) := by
  rw [minimaxL_succ 4 [some O, some X, none, none, some O, none, none, none, some X] X O [2, 3, 5, 6, 7] rfl rfl (List.cons_ne_nil _ _)]
  show pickBest [(2, (minimaxL 4 [some O, some X, some X, none, some O, none, none, none, some X] O X).2), (3, (minimaxL 4 [some O, some X, none, some X, some O, none, none, none, some X] O X).2), (5, (minimaxL 4 [some O, some X, none, none, some O, some X, none, none, some X] O X).2), (6, (minimaxL 4 [some O, some X, none, none, some O, none, some X, none, some X] O X).2), (7, (minimaxL 4 [some O, some X, none, none, some O, none, none, some X, some X] O X).2)] X = (some 6, 0)
  rw [mmv_1253, mmv_1449, mmv_1624, mmv_1678, mmv_1698]
  rfl

theorem mmv_1724 : minimaxL 3 [some O, some X, none, some O, some X, some O, none, none, some X] X O = (some 7, 1) := rfl

theorem mmv_1725 : minimaxL 3 [some O, some X, none, none, some X, some O, some O, none, some X] X O = (some 7, 1) := rfl

theorem mmv_1723 : minimaxL 4 [some O, some X, none, none, some X, some O, none, none, some X] O X = (some 7, 0) := by
  rw [minimaxL_succ 3 [some O, some X, none, none, some X, some O, none, none, some X] O X [2, 3, 6, 7] rfl rfl (List.cons_ne_nil _ _)]
  show pickBest [(2, (minimaxL 3 [some O, some X, some O, none, some X, some O, none, none, some X] X O).2), (3, (minimaxL 3 [some O, some X, none, some O, some X, some O, none, none, some X] X O).2), (6, (minimaxL 3 [some O, some X, none, none, some X, some O, some O, none, some X] X O).2), (7, (minimaxL 3 [some O, some X, none, none, some X, some O, none, some O, some X] X O).2)] O = (some 7, 0)
  rw [mmv_1712, mmv_1724, mmv_1725, mmv_1558]
  rfl

theorem mmv_1727 : minimaxL 3 [some O, some X, none, some O, none, some O, none, some X, some X] X O = (some 4, 1) := rfl

theorem mmv_1728 : minimaxL 3 [some O, some X, none, none, none, some O, some O, some X, some X] X O = (some 4, 1) := rfl

theorem mmv_1726 : minimaxL 4 [some O, some X, none, none, none, some O, none, some X, some X] O X = (some 2, 1) := by
  rw [minimaxL_succ 3 [some O, some X, none, none, none, some O, none, some X, some X] O X [2, 3, 4, 6] rfl rfl (List.cons_ne_nil _ _)]
  show pickBest [(2, (minimaxL 3 [some O, some X, some O, none, none, some O, none, some X, some X] X O).2), (3, (minimaxL 3 [some O, some X, none, some O, none, some O, none, some X, some X] X O).2), (4, (minimaxL 3 [some O, some X, none, none, some O, some O, none, some X, some X] X O).2), (6, (minimaxL 3 [some O, some X, none, none, none, some O, some O, some X, some X] X O).2)] O = (some 2, 1)
  rw [mmv_1716, mmv_1727, mmv_1701, mmv_1728]
  rfl

theorem mmv_1722 : minimaxL 5 [some O, some X, none, none, none, some O, none, none, some X] X O = (some 7, 1) := by
  rw [minimaxL_succ 4 [some O, some X, none, none, none, some O, none, none, some X] X O [2, 3, 4, 6, 7] rfl rfl (List.cons_ne_nil _ _)]
  show pickBest [(2, (minimaxL 4 [some O, some X, some X, none, none, some O, none, none, some X] O X).2), (3, (minimaxL 4 [some O, some X, none, some X, none, some O, none, none, some X] O X).2), (4, (minimaxL 4 [some O, some X, none, none, some X, some O, none, none, some X] O X).2), (6, (minimaxL 4 [some O, some X, none, none, none, some O, some X, none, some X] O X).2), (7, (minimaxL 4 [some O, some X, none, none, none, some O, none, some X, some X] O X).2)] X = (some 7, 1)
  rw [mmv_1306, mmv_1483, mmv_1723, mmv_1687, mmv_1726]
  rfl

theorem mmv_1730 : minimaxL 4 [some O, some X, none, none, some X, none, some O, none, some X] O X = (some 3, -1) := rfl

theorem mmv_1731 : minimaxL 4 [some O, some X, none, none, none, none, some O, some X, some X] O X = (some 3, -1) := rfl

theorem mmv_1729 : minimaxL 5 [some O, some X, none, none, none, none, some O, none, some X] X O = (some 3, 0) := by
  rw [minimaxL_succ 4 [some O, some X, none, none, none, none, some O, none, some X] X O [2, 3, 4, 5, 7] rfl rfl (List.cons_ne_nil _ _)]
  show pickBest [(2, (minimaxL 4 [some O, some X, some X, none, none, none, some O, none, some X] O X).2), (3, (minimaxL 4 [some O, some X, none, some X, none, none, some O, none, some X] O X).2), (4, (minimaxL 4 [some O, some X, none, none, some X, none, some O, none, some X] O X).2), (5, (minimaxL 4 [some O, some X, none, none, none, some X, some O, none, some X] O X).2), (7, (minimaxL 4 [some O, some X, none, none, none, none, some O, some X, some X] O X).2)] X = (some 3, 0)
  rw [mmv_1339, mmv_1500, mmv_1730, mmv_1631, mmv_1731]
  rfl

theorem mmv_1732 : minimaxL 5 [some O, some X, none, none, none, none, none, some O, some X] X O = (some 6, 0) := by
  rw [minimaxL_succ 4 [some O, some X, none, none, none, none, none, some O, some X] X O [2, 3, 4, 5, 6] rfl rfl (List.cons_ne_nil _ _)]
  show pickBest [(2, (minimaxL 4 [some O, some X, some X, none, none, none, none, some O, some X] O X).2), (3, (minimaxL 4 [some O, some X, none, some X, none, none, none, some O, some X] O X).2), (4, (minimaxL 4 [some O, some X, none, none, some X, none, none, some O, some X] O X).2), (5, (minimaxL 4 [some O, some X, none, none, none, some X, none, some O, some X] O X).2), (6, (minimaxL 4 [some O, some X, none, none, none, none, some X, some O, some X] O X).2)] X = (some 6, 0)
  rw [mmv_1369, mmv_1516, mmv_1549, mmv_1638, mmv_1690]
  rfl

theorem mmv_1708 : minimaxL 6 [some O, some X, none, none, none, none, none, none, some X] O X = (some 4, 0) := by
  rw [minimaxL_succ 5 [some O, some X, none, none, none, none, none, none, some X] O X [2, 3, 4, 5, 6, 7] rfl rfl (List.cons_ne_nil _ _)]
  show pickBest [(2, (minimaxL 5 [some O, some X, some O, none, none, none, none, none, some X] X O).2), (3, (minimaxL 5 [some O, some X, none, some O, none, none, none, none, some X] X O).2), (4, (minimaxL 5 [some O, some X, none, none, some O, none, none, none, some X] X O).2), (5, (minimaxL 5 [some O, some X, none, none, none, some O, none, none, some X] X O).2), (6, (minimaxL 5 [some O, some X, none, none, none, none, some O, none, some X] X O).2), (7, (minimaxL 5 [some O, some X, none, none, none, none, none, some O, some X] X O).2)] O = (some 4, 0)
  rw [mmv_1709, mmv_1718, mmv_1721, mmv_1722, mmv_1729, mmv_1732]
  rfl

theorem mmv_1233 : minimaxL 7 [some O, some X, none, none, none, none, none, none, none] X O = (some 8, 0) := by
  rw [minimaxL_succ 6 [some O, some X, none, none, none, none, none, none, none] X O [2, 3, 4, 5, 6, 7, 8] rfl rfl (List.cons_ne_nil _ _)]
  show pickBest [(2, (minimaxL 6 [some O, some X, some X, none, none, none, none, none, none] O X).2), (3, (minimaxL 6 [some O, some X, none, some X, none, none, none, none, none] O X).2), (4, (minimaxL 6 [some O, some X, none, none, some X, none, none, none, none] O X).2), (5, (minimaxL 6 [some O, some X, none, none, none, some X, none, none, none] O X).2), (6, (minimaxL 6 [some O, some X, none, none, none, none, some X, none, none] O X).2), (7, (minimaxL 6 [some O, some X, none, none, none, none, none, some X, none] O X).2), (8, (minimaxL 6 [some O, some X, none, none, none, none, none, none, some X] O X).2)] X = (some 8, 0)
  rw [mmv_1234, mmv_1380, mmv_1522, mmv_1563, mmv_1647, mmv_1694, mmv_1708]
  rfl

theorem mmv_1736 : minimaxL 4 [none, some X, some O, some X, some O, some X, none, none, none] O X = (some 6, -1) := rfl

theorem mmv_1738 : minimaxL 3 [none, some X, some O, some X, some O, some O, some X, none, none] X O = (some 0, 1) := rfl

theorem mmv_1739 : minimaxL 3 [none, some X, some O, some X, some O, none, some X, some O, none] X O = (some 0, 1) := rfl

theorem mmv_1740 : minimaxL 3 [none, some X, some O, some X, some O, none, some X, none, some O] X O = (some 0, 1) := rfl

theorem mmv_1737 : minimaxL 4 [none, some X, some O, some X, some O, none, some X, none, none] O X = (some 0, 0) := by
  rw [minimaxL_succ 3 [none, some X, some O, some X, some O, none, some X, none, none] O X [0, 5, 7, 8] rfl rfl (List.cons_ne_nil _ _)]
  show pickBest [(0, (minimaxL 3 [some O, some X, some O, some X, some O, none, some X, none, none] X O).2), (5, (minimaxL 3 [none, some X, some O, some X, some O, some O, some X, none, none] X O).2), (7, (minimaxL 3 [none, some X, some O, some X, some O, none, some X, some O, none] X O).2), (8, (minimaxL 3 [none, some X, some O, some X, some O, none, some X, none, some O] X O).2)] O = (some 0, 0)
  rw [mmv_1396, mmv_1738, mmv_1739, mmv_1740]
  rfl

theorem mmv_1741 : minimaxL 4 [none, some X, some O, some X, some O, none, none, some X, none] O X = (some 6, -1) := rfl

theorem mmv_1742 : minimaxL 4 [none, some X, some O, some X, some O, none, none, none, some X] O X = (some 6, -1) := rfl

theorem mmv_1735 : minimaxL 5 [none, some X, some O, some X, some O, none, none, none, none] X O = (some 6, 0) := by
  rw [minimaxL_succ 4 [none, some X, some O, some X, some O, none, none, none, none] X O [0, 5, 6, 7, 8] rfl rfl (List.cons_ne_nil _ _)]
  show pickBest [(0, (minimaxL 4 [some X, some X, some O, some X, some O, none, none, none, none] O X).2), (5, (minimaxL 4 [none, some X, some O, some X, some O, some X, none, none, none] O X).2), (6, (minimaxL 4 [none, some X, some O, some X, some O, none, some X, none, none] O X).2), (7, (minimaxL 4 [none, some X, some O, some X, some O, none, none, some X, none] O X).2), (8, (minimaxL 4 [none, some X, some O, some X, some O, none, none, none, some X] O X).2)] X = (some 6, 0)
  rw [mmv_0523, mmv_1736, mmv_1737, mmv_1741, mmv_1742]
  rfl

theorem mmv_1744 : minimaxL 4 [none, some X, some O, some X, some X, some O, none, none, none] O X = (some 8, -1) := rfl

theorem mmv_1745 : minimaxL 4 [none, some X, some O, some X, none, some O, some X, none, none] O X = (some 8, -1) := rfl

theorem mmv_1746 : minimaxL 4 [none, some X, some O, some X, none, some O, none, some X, none] O X = (some 8, -1) := rfl

theorem mmv_1750 : minimaxL 1 [none, some X, some O, some X, some O, some O, some X, some O, some X] X O = (some 0, 1) := rfl

theorem mmv_1749 : minimaxL 2 [none, some X, some O, some X, some O, some O, some X, none, some X] O X = (some 0, 1) := by
  rw [minimaxL_succ 1 [none, some X, some O, some X, some O, some O, some X, none, some X] O X [0, 7] rfl rfl (List.cons_ne_nil _ _)]
  show pickBest [(0, (minimaxL 1 [some O, some X, some O, some X, some O, some O, some X, none, some X] X O).2), (7, (minimaxL 1 [none, some X, some O, some X, some O, some O, some X, some O, some X] X O).2)] O = (some 0, 1)
  rw [mmv_1399, mmv_1750]
  rfl

theorem mmv_1751 : minimaxL 2 [none, some X, some O, some X, some O, some O, none, some X, some X] O X = (some 6, -1) := rfl

theorem mmv_1748 : minimaxL 3 [none, some X, some O, some X, some O, some O, none, none, some X] X O = (some 6, 1) := by
  rw [minimaxL_succ 2 [none, some X, some O, some X, some O, some O, none, none, some X] X O [0, 6, 7] rfl rfl (List.cons_ne_nil _ _)]
  show pickBest [(0, (minimaxL 2 [some X, some X, some O, some X, some O, some O, none, none, some X] O X).2), (6, (minimaxL 2 [none, some X, some O, some X, some O, some O, some X, none, some X] O X).2), (7, (minimaxL 2 [none, some X, some O, some X, some O, some O, none, some X, some X] O X).2)] X = (some 6, 1)
  rw [mmv_0538, mmv_1749, mmv_1751]
  rfl

theorem mmv_1754 : minimaxL 1 [none, some X, some O, some X, some X, some O, some O, some O, some X] X O = (some 0, 1) := rfl

theorem mmv_1753 : minimaxL 2 [none, some X, some O, some X, some X, some O, some O, none, some X] O X = (some 0, 1) := by
  rw [minimaxL_succ 1 [none, some X, some O, some X, some X, some O, some O, none, some X] O X [0, 7] rfl rfl (List.cons_ne_nil _ _)]
  show pickBest [(0, (minimaxL 1 [some O, some X, some O, some X, some X, some O, some O, none, some X] X O).2), (7, (minimaxL 1 [none, some X, some O, some X, some X, some O, some O, some O, some X] X O).2)] O = (some 0, 1)
  rw [mmv_1430, mmv_1754]
  rfl

theorem mmv_1755 : minimaxL 2 [none, some X, some O, some X, none, some O, some O, some X, some X] O X = (some 4, -1) := rfl

theorem mmv_1752 : minimaxL 3 [none, some X, some O, some X, none, some O, some O, none, some X] X O = (some 4, 1) := by
  rw [minimaxL_succ 2 [none, some X, some O, some X, none, some O, some O, none, some X] X O [0, 4, 7] rfl rfl (List.cons_ne_nil _ _)]
  show pickBest [(0, (minimaxL 2 [some X, some X, some O, some X, none, some O, some O, none, some X] O X).2), (4, (minimaxL 2 [none, some X, some O, some X, some X, some O, some O, none, some X] O X).2), (7, (minimaxL 2 [none, some X, some O, some X, none, some O, some O, some X, some X] O X).2)] X = (some 4, 1)
  rw [mmv_1085, mmv_1753, mmv_1755]
  rfl

theorem mmv_1758 : minimaxL 1 [some X, some X, some O, some X, some O, some O, none, some O, some X] X O = (some 6, 1) := rfl

theorem mmv_1759 : minimaxL 1 [some X, some X, some O, some X, none, some O, some O, some O, some X] X O = (some 4, 1) := rfl

theorem mmv_1757 : minimaxL 2 [some X, some X, some O, some X, none, some O, none, some O, some X] O X = (some 4, 1) := by
  rw [minimaxL_succ 1 [some X, some X, some O, some X, none, some O, none, some O, some X] O X [4, 6] rfl rfl (List.cons_ne_nil _ _)]
  show pickBest [(4, (minimaxL 1 [some X, some X, some O, some X, some O, some O, none, some O, some X] X O).2), (6, (minimaxL 1 [some X, some X, some O, some X, none, some O, some O, some O, some X] X O).2)] O = (some 4, 1)
  rw [mmv_1758, mmv_1759]
  rfl

theorem mmv_1760 : minimaxL 2 [none, some X, some O, some X, some X, some O, none, some O, some X] O X = (some 0, 0) := by
  rw [minimaxL_succ 1 [none, some X, some O, some X, some X, some O, none, some O, some X] O X [0, 6] rfl rfl (List.cons_ne_nil _ _)]
  show pickBest [(0, (minimaxL 1 [some O, some X, some O, some X, some X, some O, none, some O, some X] X O).2), (6, (minimaxL 1 [none, some X, some O, some X, some X, some O, some O, some O, some X] X O).2)] O = (some 0, 0)
  rw [mmv_1431, mmv_1754]
  rfl

theorem mmv_1761 : minimaxL 2 [none, some X, some O, some X, none, some O, some X, some O, some X] O X = (some 0, 0) := by
  rw [minimaxL_succ 1 [none, some X, some O, some X, none, some O, some X, some O, some X] O X [0, 4] rfl rfl (List.cons_ne_nil _ _)]
  show pickBest [(0, (minimaxL 1 [some O, some X, some O, some X, none, some O, some X, some O, some X] X O).2), (4, (minimaxL 1 [none, some X, some O, some X, some O, some O, some X, some O, some X] X O).2)] O = (some 0, 0)
  rw [mmv_1406, mmv_1750]
  rfl

theorem mmv_1756 : minimaxL 3 [none, some X, some O, some X, none, some O, none, some O, some X] X O = (some 0, 1) := by
  rw [minimaxL_succ 2 [none, some X, some O, some X, none, some O, none, some O, some X] X O [0, 4, 6] rfl rfl (List.cons_ne_nil _ _)]
  show pickBest [(0, (minimaxL 2 [some X, some X, some O, some X, none, some O, none, some O, some X] O X).2), (4, (minimaxL 2 [none, some X, some O, some X, some X, some O, none, some O, some X] O X).2), (6, (minimaxL 2 [none, some X, some O, some X, none, some O, some X, some O, some X] O X).2)] X = (some 0, 1)
  rw [mmv_1757, mmv_1760, mmv_1761]
  rfl

theorem mmv_1747 : minimaxL 4 [none, some X, some O, some X, none, some O, none, none, some X] O X = (some 0, 1) := by
  rw [minimaxL_succ 3 [none, some X, some O, some X, none, some O, none, none, some X] O X [0, 4, 6, 7] rfl rfl (List.cons_ne_nil _ _)]
  show pickBest [(0, (minimaxL 3 [some O, some X, some O, some X, none, some O, none, none, some X] X O).2), (4, (minimaxL 3 [none, some X, some O, some X, some O, some O, none, none, some X] X O).2), (6, (minimaxL 3 [none, some X, some O, some X, none, some O, some O, none, some X] X O).2), (7, (minimaxL 3 [none, some X, some O, some X, none, some O, none, some O, some X] X O).2)] O = (some 0, 1)
  rw [mmv_1428, mmv_1748, mmv_1752, mmv_1756]
  rfl

theorem mmv_1743 : minimaxL 5 [none, some X, some O, some X, none, some O, none, none, none] X O = (some 8, 1) := by
  rw [minimaxL_succ 4 [none, some X, some O, some X, none, some O, none, none, none] X O [0, 4, 6, 7, 8] rfl rfl (List.cons_ne_nil _ _)]
  show pickBest [(0, (minimaxL 4 [some X, some X, some O, some X, none, some O, none, none, none] O X).2), (4, (minimaxL 4 [none, some X, some O, some X, some X, some O, none, none, none] O X).2), (6, (minimaxL 4 [none, some X, some O, some X, none, some O, some X, none, none] O X).2), (7, (minimaxL 4 [none, some X, some O, some X, none, some O, none, some X, none] O X).2), (8, (minimaxL 4 [none, some X, some O, some X, none, some O, none, none, some X] O X).2)] X = (some 8, 1)
  rw [mmv_0532, mmv_1744, mmv_1745, mmv_1746, mmv_1747]
  rfl

theorem mmv_1764 : minimaxL 3 [none, some X, some O, some X, some X, some O, some O, none, none] X O = (some 7, 1) := rfl

theorem mmv_1765 : minimaxL 3 [none, some X, some O, some X, some X, none, some O, some O, none] X O = (some 5, 1) := rfl

theorem mmv_1766 : minimaxL 3 [none, some X, some O, some X, some X, none, some O, none, some O] X O = (some 7, 1) := rfl

theorem mmv_1763 : minimaxL 4 [none, some X, some O, some X, some X, none, some O, none, none] O X = (some 0, 1) := by
  rw [minimaxL_succ 3 [none, some X, some O, some X, some X, none, some O, none, none] O X [0, 5, 7, 8] rfl rfl (List.cons_ne_nil _ _)]
  show pickBest [(0, (minimaxL 3 [some O, some X, some O, some X, some X, none, some O, none, none] X O).2), (5, (minimaxL 3 [none, some X, some O, some X, some X, some O, some O, none, none] X O).2), (7, (minimaxL 3 [none, some X, some O, some X, some X, none, some O, some O, none] X O).2), (8, (minimaxL 3 [none, some X, some O, some X, some X, none, some O, none, some O] X O).2)] O = (some 0, 1)
  rw [mmv_1384, mmv_1764, mmv_1765, mmv_1766]
  rfl

theorem mmv_1767 : minimaxL 4 [none, some X, some O, some X, none, some X, some O, none, none] O X = (some 4, -1) := rfl

theorem mmv_1768 : minimaxL 4 [none, some X, some O, some X, none, none, some O, some X, none] O X = (some 4, -1) := rfl

theorem mmv_1769 : minimaxL 4 [none, some X, some O, some X, none, none, some O, none, some X] O X = (some 4, -1) := rfl

theorem mmv_1762 : minimaxL 5 [none, some X, some O, some X, none, none, some O, none, none] X O = (some 4, 1) := by
  rw [minimaxL_succ 4 [none, some X, some O, some X, none, none, some O, none, none] X O [0, 4, 5, 7, 8] rfl rfl (List.cons_ne_nil _ _)]
  show pickBest [(0, (minimaxL 4 [some X, some X, some O, some X, none, none, some O, none, none] O X).2), (4, (minimaxL 4 [none, some X, some O, some X, some X, none, some O, none, none] O X).2), (5, (minimaxL 4 [none, some X, some O, some X, none, some X, some O, none, none] O X).2), (7, (minimaxL 4 [none, some X, some O, some X, none, none, some O, some X, none] O X).2), (8, (minimaxL 4 [none, some X, some O, some X, none, none, some O, none, some X] O X).2)] X = (some 4, 1)
  rw [mmv_0544, mmv_1763, mmv_1767, mmv_1768, mmv_1769]
  rfl

theorem mmv_1773 : minimaxL 2 [some X, some X, some O, some X, some X, some O, none, some O, none] O X = (some 8, -1) := rfl

theorem mmv_1774 : minimaxL 2 [none, some X, some O, some X, some X, some O, some X, some O, none] O X = (some 8, -1) := rfl

theorem mmv_1772 : minimaxL 3 [none, some X, some O, some X, some X, some O, none, some O, none] X O = (some 8, 0) := by
  rw [minimaxL_succ 2 [none, some X, some O, some X, some X, some O, none, some O, none] X O [0, 6, 8] rfl rfl (List.cons_ne_nil _ _)]
  show pickBest [(0, (minimaxL 2 [some X, some X, some O, some X, some X, some O, none, some O, none] O X).2), (6, (minimaxL 2 [none, some X, some O, some X, some X, some O, some X, some O, none] O X).2), (8, (minimaxL 2 [none, some X, some O, some X, some X, some O, none, some O, some X] O X).2)] X = (some 8, 0)
  rw [mmv_1773, mmv_1774, mmv_1760]
  rfl

theorem mmv_1775 : minimaxL 3 [none, some X, some O, some X, some X, none, none, some O, some O] X O = (some 5, 1) := rfl

theorem mmv_1771 : minimaxL 4 [none, some X, some O, some X, some X, none, none, some O, none] O X = (some 5, 0) := by
  rw [minimaxL_succ 3 [none, some X, some O, some X, some X, none, none, some O, none] O X [0, 5, 6, 8] rfl rfl (List.cons_ne_nil _ _)]
  show pickBest [(0, (minimaxL 3 [some O, some X, some O, some X, some X, none, none, some O, none] X O).2), (5, (minimaxL 3 [none, some X, some O, some X, some X, some O, none, some O, none] X O).2), (6, (minimaxL 3 [none, some X, some O, some X, some X, none, some O, some O, none] X O).2), (8, (minimaxL 3 [none, some X, some O, some X, some X, none, none, some O, some O] X O).2)] O = (some 5, 0)
  rw [mmv_1385, mmv_1772, mmv_1765, mmv_1775]
  rfl

theorem mmv_1779 : minimaxL 1 [none, some X, some O, some X, some O, some X, some X, some O, some O] X O = (some 0, 1) := rfl

theorem mmv_1778 : minimaxL 2 [none, some X, some O, some X, some O, some X, some X, some O, none] O X = (some 0, 0) := by
  rw [minimaxL_succ 1 [none, some X, some O, some X, some O, some X, some X, some O, none] O X [0, 8] rfl rfl (List.cons_ne_nil _ _)]
  show pickBest [(0, (minimaxL 1 [some O, some X, some O, some X, some O, some X, some X, some O, none] X O).2), (8, (minimaxL 1 [none, some X, some O, some X, some O, some X, some X, some O, some O] X O).2)] O = (some 0, 0)
  rw [mmv_1413, mmv_1779]
  rfl

theorem mmv_1780 : minimaxL 2 [none, some X, some O, some X, some O, some X, none, some O, some X] O X = (some 6, -1) := rfl

theorem mmv_1777 : minimaxL 3 [none, some X, some O, some X, some O, some X, none, some O, none] X O = (some 6, 0) := by
  rw [minimaxL_succ 2 [none, some X, some O, some X, some O, some X, none, some O, none] X O [0, 6, 8] rfl rfl (List.cons_ne_nil _ _)]
  show pickBest [(0, (minimaxL 2 [some X, some X, some O, some X, some O, some X, none, some O, none] O X).2), (6, (minimaxL 2 [none, some X, some O, some X, some O, some X, some X, some O, none] O X).2), (8, (minimaxL 2 [none, some X, some O, some X, some O, some X, none, some O, some X] O X).2)] X = (some 6, 0)
  rw [mmv_0569, mmv_1778, mmv_1780]
  rfl

theorem mmv_1781 : minimaxL 3 [none, some X, some O, some X, none, some X, some O, some O, none] X O = (some 4, 1) := rfl

theorem mmv_1782 : minimaxL 3 [none, some X, some O, some X, none, some X, none, some O, some O] X O = (some 4, 1) := rfl

theorem mmv_1776 : minimaxL 4 [none, some X, some O, some X, none, some X, none, some O, none] O X = (some 4, 0) := by
  rw [minimaxL_succ 3 [none, some X, some O, some X, none, some X, none, some O, none] O X [0, 4, 6, 8] rfl rfl (List.cons_ne_nil _ _)]
  show pickBest [(0, (minimaxL 3 [some O, some X, some O, some X, none, some X, none, some O, none] X O).2), (4, (minimaxL 3 [none, some X, some O, some X, some O, some X, none, some O, none] X O).2), (6, (minimaxL 3 [none, some X, some O, some X, none, some X, some O, some O, none] X O).2), (8, (minimaxL 3 [none, some X, some O, some X, none, some X, none, some O, some O] X O).2)] O = (some 4, 0)
  rw [mmv_1393, mmv_1777, mmv_1781, mmv_1782]
  rfl

theorem mmv_1784 : minimaxL 3 [none, some X, some O, some X, none, some O, some X, some O, none] X O = (some 0, 1) := rfl

theorem mmv_1785 : minimaxL 3 [none, some X, some O, some X, none, none, some X, some O, some O] X O = (some 0, 1) := rfl

theorem mmv_1783 : minimaxL 4 [none, some X, some O, some X, none, none, some X, some O, none] O X = (some 0, 0) := by
  rw [minimaxL_succ 3 [none, some X, some O, some X, none, none, some X, some O, none] O X [0, 4, 5, 8] rfl rfl (List.cons_ne_nil _ _)]
  show pickBest [(0, (minimaxL 3 [some O, some X, some O, some X, none, none, some X, some O, none] X O).2), (4, (minimaxL 3 [none, some X, some O, some X, some O, none, some X, some O, none] X O).2), (5, (minimaxL 3 [none, some X, some O, some X, none, some O, some X, some O, none] X O).2), (8, (minimaxL 3 [none, some X, some O, some X, none, none, some X, some O, some O] X O).2)] O = (some 0, 0)
  rw [mmv_1408, mmv_1739, mmv_1784, mmv_1785]
  rfl

theorem mmv_1788 : minimaxL 2 [none, some X, some O, some X, some O, none, some X, some O, some X] O X = (some 0, 0) := by
  rw [minimaxL_succ 1 [none, some X, some O, some X, some O, none, some X, some O, some X] O X [0, 5] rfl rfl (List.cons_ne_nil _ _)]
  show pickBest [(0, (minimaxL 1 [some O, some X, some O, some X, some O, none, some X, some O, some X] X O).2), (5, (minimaxL 1 [none, some X, some O, some X, some O, some O, some X, some O, some X] X O).2)] O = (some 0, 0)
  rw [mmv_1400, mmv_1750]
  rfl

theorem mmv_1787 : minimaxL 3 [none, some X, some O, some X, some O, none, none, some O, some X] X O = (some 6, 0) := by
  rw [minimaxL_succ 2 [none, some X, some O, some X, some O, none, none, some O, some X] X O [0, 5, 6] rfl rfl (List.cons_ne_nil _ _)]
  show pickBest [(0, (minimaxL 2 [some X, some X, some O, some X, some O, none, none, some O, some X] O X).2), (5, (minimaxL 2 [none, some X, some O, some X, some O, some X, none, some O, some X] O X).2), (6, (minimaxL 2 [none, some X, some O, some X, some O, none, some X, some O, some X] O X).2)] X = (some 6, 0)
  rw [mmv_0584, mmv_1780, mmv_1788]
  rfl

theorem mmv_1790 : minimaxL 2 [none, some X, some O, some X, some X, none, some O, some O, some X] O X = (some 0, 1) := by
  rw [minimaxL_succ 1 [none, some X, some O, some X, some X, none, some O, some O, some X] O X [0, 5] rfl rfl (List.cons_ne_nil _ _)]
  show pickBest [(0, (minimaxL 1 [some O, some X, some O, some X, some X, none, some O, some O, some X] X O).2), (5, (minimaxL 1 [none, some X, some O, some X, some X, some O, some O, some O, some X] X O).2)] O = (some 0, 1)
  rw [mmv_1437, mmv_1754]
  rfl

theorem mmv_1791 : minimaxL 2 [none, some X, some O, some X, none, some X, some O, some O, some X] O X = (some 4, -1) := rfl

theorem mmv_1789 : minimaxL 3 [none, some X, some O, some X, none, none, some O, some O, some X] X O = (some 4, 1) := by
  rw [minimaxL_succ 2 [none, some X, some O, some X, none, none, some O, some O, some X] X O [0, 4, 5] rfl rfl (List.cons_ne_nil _ _)]
  show pickBest [(0, (minimaxL 2 [some X, some X, some O, some X, none, none, some O, some O, some X] O X).2), (4, (minimaxL 2 [none, some X, some O, some X, some X, none, some O, some O, some X] O X).2), (5, (minimaxL 2 [none, some X, some O, some X, none, some X, some O, some O, some X] O X).2)] X = (some 4, 1)
  rw [mmv_0559, mmv_1790, mmv_1791]
  rfl

theorem mmv_1786 : minimaxL 4 [none, some X, some O, some X, none, none, none, some O, some X] O X = (some 0, 0) := by
  rw [minimaxL_succ 3 [none, some X, some O, some X, none, none, none, some O, some X] O X [0, 4, 5, 6] rfl rfl (List.cons_ne_nil _ _)]
  show pickBest [(0, (minimaxL 3 [some O, some X, some O, some X, none, none, none, some O, some X] X O).2), (4, (minimaxL 3 [none, some X, some O, some X, some O, none, none, some O, some X] X O).2), (5, (minimaxL 3 [none, some X, some O, some X, none, some O, none, some O, some X] X O).2), (6, (minimaxL 3 [none, some X, some O, some X, none, none, some O, some O, some X] X O).2)] O = (some 0, 0)
  rw [mmv_1440, mmv_1787, mmv_1756, mmv_1789]
  rfl

theorem mmv_1770 : minimaxL 5 [none, some X, some O, some X, none, none, none, some O, none] X O = (some 8, 0) := by
  rw [minimaxL_succ 4 [none, some X, some O, some X, none, none, none, some O, none] X O [0, 4, 5, 6, 8] rfl rfl (List.cons_ne_nil _ _)]
  show pickBest [(0, (minimaxL 4 [some X, some X, some O, some X, none, none, none, some O, none] O X).2), (4, (minimaxL 4 [none, some X, some O, some X, some X, none, none, some O, none] O X).2), (5, (minimaxL 4 [none, some X, some O, some X, none, some X, none, some O, none] O X).2), (6, (minimaxL 4 [none, some X, some O, some X, none, none, some X, some O, none] O X).2), (8, (minimaxL 4 [none, some X, some O, some X, none, none, none, some O, some X] O X).2)] X = (some 8, 0)
  rw [mmv_0553, mmv_1771, mmv_1776, mmv_1783, mmv_1786]
  rfl

theorem mmv_1793 : minimaxL 4 [none, some X, some O, some X, some X, none, none, none, some O] O X = (some 5, -1) := rfl

theorem mmv_1796 : minimaxL 2 [none, some X, some O, some X, some O, some X, some X, none, some O] O X = (some 0, -1) := rfl

theorem mmv_1797 : minimaxL 2 [none, some X, some O, some X, some O, some X, none, some X, some O] O X = (some 6, -1) := rfl

theorem mmv_1795 : minimaxL 3 [none, some X, some O, some X, some O, some X, none, none, some O] X O = (some 7, -1) := by
  rw [minimaxL_succ 2 [none, some X, some O, some X, some O, some X, none, none, some O] X O [0, 6, 7] rfl rfl (List.cons_ne_nil _ _)]
  show pickBest [(0, (minimaxL 2 [some X, some X, some O, some X, some O, some X, none, none, some O] O X).2), (6, (minimaxL 2 [none, some X, some O, some X, some O, some X, some X, none, some O] O X).2), (7, (minimaxL 2 [none, some X, some O, some X, some O, some X, none, some X, some O] O X).2)] X = (some 7, -1)
  rw [mmv_0593, mmv_1796, mmv_1797]
  rfl

theorem mmv_1798 : minimaxL 3 [none, some X, some O, some X, none, some X, some O, none, some O] X O = (some 4, 1) := rfl

theorem mmv_1794 : minimaxL 4 [none, some X, some O, some X, none, some X, none, none, some O] O X = (some 4, -1) := by
  rw [minimaxL_succ 3 [none, some X, some O, some X, none, some X, none, none, some O] O X [0, 4, 6, 7] rfl rfl (List.cons_ne_nil _ _)]
  show pickBest [(0, (minimaxL 3 [some O, some X, some O, some X, none, some X, none, none, some O] X O).2), (4, (minimaxL 3 [none, some X, some O, some X, some O, some X, none, none, some O] X O).2), (6, (minimaxL 3 [none, some X, some O, some X, none, some X, some O, none, some O] X O).2), (7, (minimaxL 3 [none, some X, some O, some X, none, some X, none, some O, some O] X O).2)] O = (some 4, -1)
  rw [mmv_1394, mmv_1795, mmv_1798, mmv_1782]
  rfl

theorem mmv_1799 : minimaxL 4 [none, some X, some O, some X, none, none, some X, none, some O] O X = (some 5, -1) := rfl

theorem mmv_1800 : minimaxL 4 [none, some X, some O, some X, none, none, none, some X, some O] O X = (some 5, -1) := rfl

theorem mmv_1792 : minimaxL 5 [none, some X, some O, some X, none, none, none, none, some O] X O = (some 7, -1) := by
  rw [minimaxL_succ 4 [none, some X, some O, some X, none, none, none, none, some O] X O [0, 4, 5, 6, 7] rfl rfl (List.cons_ne_nil _ _)]
  show pickBest [(0, (minimaxL 4 [some X, some X, some O, some X, none, none, none, none, some O] O X).2), (4, (minimaxL 4 [none, some X, some O, some X, some X, none, none, none, some O] O X).2), (5, (minimaxL 4 [none, some X, some O, some X, none, some X, none, none, some O] O X).2), (6, (minimaxL 4 [none, some X, some O, some X, none, none, some X, none, some O] O X).2), (7, (minimaxL 4 [none, some X, some O, some X, none, none, none, some X, some O] O X).2)] X = (some 7, -1)
  rw [mmv_0589, mmv_1793, mmv_1794, mmv_1799, mmv_1800]
  rfl

theorem mmv_1734 : minimaxL 6 [none, some X, some O, some X, none, none, none, none, none] O X = (some 8, -1) := by
  rw [minimaxL_succ 5 [none, some X, some O, some X, none, none, none, none, none] O X [0, 4, 5, 6, 7, 8] rfl rfl (List.cons_ne_nil _ _)]
  show pickBest [(0, (minimaxL 5 [some O, some X, some O, some X, none, none, none, none, none] X O).2), (4, (minimaxL 5 [none, some X, some O, some X, some O, none, none, none, none] X O).2), (5, (minimaxL 5 [none, some X, some O, some X, none, some O, none, none, none] X O).2), (6, (minimaxL 5 [none, some X, some O, some X, none, none, some O, none, none] X O).2), (7, (minimaxL 5 [none, some X, some O, some X, none, none, none, some O, none] X O).2), (8, (minimaxL 5 [none, some X, some O, some X, none, none, none, none, some O] X O).2)] O = (some 8, -1)
  rw [mmv_1381, mmv_1735, mmv_1743, mmv_1762, mmv_1770, mmv_1792]
  rfl

theorem mmv_1802 : minimaxL 5 [none, some X, some O, some O, some X, none, none, none, none] X O = (some 7, 1) := rfl

theorem mmv_1803 : minimaxL 5 [none, some X, some O, none, some X, some O, none, none, none] X O = (some 7, 1) := rfl

theorem mmv_1804 : minimaxL 5 [none, some X, some O, none, some X, none, some O, none, none] X O = (some 7, 1) := rfl

theorem mmv_1809 : minimaxL 1 [none, some X, some O, some O, some X, some X, some X, some O, some O] X O = (some 0, 0) := by
  rw [minimaxL_succ 0 [none, some X, some O, some O, some X, some X, some X, some O, some O] X O [0] rfl rfl (List.cons_ne_nil _ _)]
  show pickBest [(0, (minimaxL 0 [some X, some X, some O, some O, some X, some X, some X, some O, some O] O X).2)] X = (some 0, 0)
  rw [mmv_0481]
  rfl

theorem mmv_1808 : minimaxL 2 [none, some X, some O, some O, some X, some X, some X, some O, none] O X = (some 0, 0) := by
  rw [minimaxL_succ 1 [none, some X, some O, some O, some X, some X, some X, some O, none] O X [0, 8] rfl rfl (List.cons_ne_nil _ _)]
  show pickBest [(0, (minimaxL 1 [some O, some X, some O, some O, some X, some X, some X, some O, none] X O).2), (8, (minimaxL 1 [none, some X, some O, some O, some X, some X, some X, some O, some O] X O).2)] O = (some 0, 0)
  rw [mmv_1533, mmv_1809]
  rfl

theorem mmv_1811 : minimaxL 1 [none, some X, some O, some O, some X, some X, some O, some O, some X] X O = (some 0, 1) := rfl

theorem mmv_1810 : minimaxL 2 [none, some X, some O, some O, some X, some X, none, some O, some X] O X = (some 0, 0) := by
  rw [minimaxL_succ 1 [none, some X, some O, some O, some X, some X, none, some O, some X] O X [0, 6] rfl rfl (List.cons_ne_nil _ _)]
  show pickBest [(0, (minimaxL 1 [some O, some X, some O, some O, some X, some X, none, some O, some X] X O).2), (6, (minimaxL 1 [none, some X, some O, some O, some X, some X, some O, some O, some X] X O).2)] O = (some 0, 0)
  rw [mmv_1552, mmv_1811]
  rfl

theorem mmv_1807 : minimaxL 3 [none, some X, some O, some O, some X, some X, none, some O, none] X O = (some 8, 0) := by
  rw [minimaxL_succ 2 [none, some X, some O, some O, some X, some X, none, some O, none] X O [0, 6, 8] rfl rfl (List.cons_ne_nil _ _)]
  show pickBest [(0, (minimaxL 2 [some X, some X, some O, some O, some X, some X, none, some O, none] O X).2), (6, (minimaxL 2 [none, some X, some O, some O, some X, some X, some X, some O, none] O X).2), (8, (minimaxL 2 [none, some X, some O, some O, some X, some X, none, some O, some X] O X).2)] X = (some 8, 0)
  rw [mmv_0479, mmv_1808, mmv_1810]
  rfl

theorem mmv_1812 : minimaxL 3 [none, some X, some O, none, some X, some X, some O, some O, none] X O = (some 3, 1) := rfl

theorem mmv_1813 : minimaxL 3 [none, some X, some O, none, some X, some X, none, some O, some O] X O = (some 3, 1) := rfl

theorem mmv_1806 : minimaxL 4 [none, some X, some O, none, some X, some X, none, some O, none] O X = (some 3, 0) := by
  rw [minimaxL_succ 3 [none, some X, some O, none, some X, some X, none, some O, none] O X [0, 3, 6, 8] rfl rfl (List.cons_ne_nil _ _)]
  show pickBest [(0, (minimaxL 3 [some O, some X, some O, none, some X, some X, none, some O, none] X O).2), (3, (minimaxL 3 [none, some X, some O, some O, some X, some X, none, some O, none] X O).2), (6, (minimaxL 3 [none, some X, some O, none, some X, some X, some O, some O, none] X O).2), (8, (minimaxL 3 [none, some X, some O, none, some X, some X, none, some O, some O] X O).2)] O = (some 3, 0)
  rw [mmv_1529, mmv_1807, mmv_1812, mmv_1813]
  rfl

theorem mmv_1817 : minimaxL 1 [none, some X, some O, some O, some X, some O, some X, some O, some X] X O = (some 0, 1) := rfl

theorem mmv_1816 : minimaxL 2 [none, some X, some O, some O, some X, none, some X, some O, some X] O X = (some 0, 0) := by
  rw [minimaxL_succ 1 [none, some X, some O, some O, some X, none, some X, some O, some X] O X [0, 5] rfl rfl (List.cons_ne_nil _ _)]
  show pickBest [(0, (minimaxL 1 [some O, some X, some O, some O, some X, none, some X, some O, some X] X O).2), (5, (minimaxL 1 [none, some X, some O, some O, some X, some O, some X, some O, some X] X O).2)] O = (some 0, 0)
  rw [mmv_1544, mmv_1817]
  rfl

theorem mmv_1815 : minimaxL 3 [none, some X, some O, some O, some X, none, some X, some O, none] X O = (some 8, 0) := by
  rw [minimaxL_succ 2 [none, some X, some O, some O, some X, none, some X, some O, none] X O [0, 5, 8] rfl rfl (List.cons_ne_nil _ _)]
  show pickBest [(0, (minimaxL 2 [some X, some X, some O, some O, some X, none, some X, some O, none] O X).2), (5, (minimaxL 2 [none, some X, some O, some O, some X, some X, some X, some O, none] O X).2), (8, (minimaxL 2 [none, some X, some O, some O, some X, none, some X, some O, some X] O X).2)] X = (some 8, 0)
  rw [mmv_0502, mmv_1808, mmv_1816]
  rfl

theorem mmv_1819 : minimaxL 2 [some X, some X, some O, none, some X, some O, some X, some O, none] O X = (some 8, -1) := rfl

theorem mmv_1820 : minimaxL 2 [none, some X, some O, none, some X, some O, some X, some O, some X] O X = (some 0, 0) := by
  rw [minimaxL_succ 1 [none, some X, some O, none, some X, some O, some X, some O, some X] O X [0, 3] rfl rfl (List.cons_ne_nil _ _)]
  show pickBest [(0, (minimaxL 1 [some O, some X, some O, none, some X, some O, some X, some O, some X] X O).2), (3, (minimaxL 1 [none, some X, some O, some O, some X, some O, some X, some O, some X] X O).2)] O = (some 0, 0)
  rw [mmv_1545, mmv_1817]
  rfl

theorem mmv_1818 : minimaxL 3 [none, some X, some O, none, some X, some O, some X, some O, none] X O = (some 8, 0) := by
  rw [minimaxL_succ 2 [none, some X, some O, none, some X, some O, some X, some O, none] X O [0, 3, 8] rfl rfl (List.cons_ne_nil _ _)]
  show pickBest [(0, (minimaxL 2 [some X, some X, some O, none, some X, some O, some X, some O, none] O X).2), (3, (minimaxL 2 [none, some X, some O, some X, some X, some O, some X, some O, none] O X).2), (8, (minimaxL 2 [none, some X, some O, none, some X, some O, some X, some O, some X] O X).2)] X = (some 8, 0)
  rw [mmv_1819, mmv_1774, mmv_1820]
  rfl

theorem mmv_1822 : minimaxL 2 [none, some X, some O, some X, some X, none, some X, some O, some O] O X = (some 5, -1) := rfl

theorem mmv_1823 : minimaxL 2 [none, some X, some O, none, some X, some X, some X, some O, some O] O X = (some 3, 0) := by
  rw [minimaxL_succ 1 [none, some X, some O, none, some X, some X, some X, some O, some O] O X [0, 3] rfl rfl (List.cons_ne_nil _ _)]
  show pickBest [(0, (minimaxL 1 [some O, some X, some O, none, some X, some X, some X, some O, some O] X O).2), (3, (minimaxL 1 [none, some X, some O, some O, some X, some X, some X, some O, some O] X O).2)] O = (some 3, 0)
  rw [mmv_1542, mmv_1809]
  rfl

theorem mmv_1821 : minimaxL 3 [none, some X, some O, none, some X, none, some X, some O, some O] X O = (some 5, 0) := by
  rw [minimaxL_succ 2 [none, some X, some O, none, some X, none, some X, some O, some O] X O [0, 3, 5] rfl rfl (List.cons_ne_nil _ _)]
  show pickBest [(0, (minimaxL 2 [some X, some X, some O, none, some X, none, some X, some O, some O] O X).2), (3, (minimaxL 2 [none, some X, some O, some X, some X, none, some X, some O, some O] O X).2), (5, (minimaxL 2 [none, some X, some O, none, some X, some X, some X, some O, some O] O X).2)] X = (some 5, 0)
  rw [mmv_0566, mmv_1822, mmv_1823]
  rfl

theorem mmv_1814 : minimaxL 4 [none, some X, some O, none, some X, none, some X, some O, none] O X = (some 0, 0) := by
  rw [minimaxL_succ 3 [none, some X, some O, none, some X, none, some X, some O, none] O X [0, 3, 5, 8] rfl rfl (List.cons_ne_nil _ _)]
  show pickBest [(0, (minimaxL 3 [some O, some X, some O, none, some X, none, some X, some O, none] X O).2), (3, (minimaxL 3 [none, some X, some O, some O, some X, none, some X, some O, none] X O).2), (5, (minimaxL 3 [none, some X, some O, none, some X, some O, some X, some O, none] X O).2), (8, (minimaxL 3 [none, some X, some O, none, some X, none, some X, some O, some O] X O).2)] O = (some 0, 0)
  rw [mmv_1540, mmv_1815, mmv_1818, mmv_1821]
  rfl

theorem mmv_1825 : minimaxL 3 [none, some X, some O, some O, some X, none, none, some O, some X] X O = (some 0, 1) := rfl

theorem mmv_1826 : minimaxL 3 [none, some X, some O, none, some X, some O, none, some O, some X] X O = (some 0, 1) := rfl

theorem mmv_1827 : minimaxL 3 [none, some X, some O, none, some X, none, some O, some O, some X] X O = (some 0, 1) := rfl

theorem mmv_1824 : minimaxL 4 [none, some X, some O, none, some X, none, none, some O, some X] O X = (some 0, 0) := by
  rw [minimaxL_succ 3 [none, some X, some O, none, some X, none, none, some O, some X] O X [0, 3, 5, 6] rfl rfl (List.cons_ne_nil _ _)]
  show pickBest [(0, (minimaxL 3 [some O, some X, some O, none, some X, none, none, some O, some X] X O).2), (3, (minimaxL 3 [none, some X, some O, some O, some X, none, none, some O, some X] X O).2), (5, (minimaxL 3 [none, some X, some O, none, some X, some O, none, some O, some X] X O).2), (6, (minimaxL 3 [none, some X, some O, none, some X, none, some O, some O, some X] X O).2)] O = (some 0, 0)
  rw [mmv_1550, mmv_1825, mmv_1826, mmv_1827]
  rfl

theorem mmv_1805 : minimaxL 5 [none, some X, some O, none, some X, none, none, some O, none] X O = (some 8, 0) := by
  rw [minimaxL_succ 4 [none, some X, some O, none, some X, none, none, some O, none] X O [0, 3, 5, 6, 8] rfl rfl (List.cons_ne_nil _ _)]
  show pickBest [(0, (minimaxL 4 [some X, some X, some O, none, some X, none, none, some O, none] O X).2), (3, (minimaxL 4 [none, some X, some O, some X, some X, none, none, some O, none] O X).2), (5, (minimaxL 4 [none, some X, some O, none, some X, some X, none, some O, none] O X).2), (6, (minimaxL 4 [none, some X, some O, none, some X, none, some X, some O, none] O X).2), (8, (minimaxL 4 [none, some X, some O, none, some X, none, none, some O, some X] O X).2)] X = (some 8, 0)
  rw [mmv_0561, mmv_1771, mmv_1806, mmv_1814, mmv_1824]
  rfl

theorem mmv_1828 : minimaxL 5 [none, some X, some O, none, some X, none, none, none, some O] X O = (some 7, 1) := rfl

theorem mmv_1801 : minimaxL 6 [none, some X, some O, none, some X, none, none, none, none] O X = (some 7, 0) := by
  rw [minimaxL_succ 5 [none, some X, some O, none, some X, none, none, none, none] O X [0, 3, 5, 6, 7, 8] rfl rfl (List.cons_ne_nil _ _)]
  show pickBest [(0, (minimaxL 5 [some O, some X, some O, none, some X, none, none, none, none] X O).2), (3, (minimaxL 5 [none, some X, some O, some O, some X, none, none, none, none] X O).2), (5, (minimaxL 5 [none, some X, some O, none, some X, some O, none, none, none] X O).2), (6, (minimaxL 5 [none, some X, some O, none, some X, none, some O, none, none] X O).2), (7, (minimaxL 5 [none, some X, some O, none, some X, none, none, some O, none] X O).2), (8, (minimaxL 5 [none, some X, some O, none, some X, none, none, none, some O] X O).2)] O = (some 7, 0)
  rw [mmv_1523, mmv_1802, mmv_1803, mmv_1804, mmv_1805, mmv_1828]
  rfl

theorem mmv_1832 : minimaxL 3 [none, some X, some O, some O, some X, some X, some O, none, none] X O = (some 7, 1) := rfl

theorem mmv_1833 : minimaxL 3 [none, some X, some O, some O, some X, some X, none, none, some O] X O = (some 7, 1) := rfl

theorem mmv_1831 : minimaxL 4 [none, some X, some O, some O, some X, some X, none, none, none] O X = (some 7, 0) := by
  rw [minimaxL_succ 3 [none, some X, some O, some O, some X, some X, none, none, none] O X [0, 6, 7, 8] rfl rfl (List.cons_ne_nil _ _)]
  show pickBest [(0, (minimaxL 3 [some O, some X, some O, some O, some X, some X, none, none, none] X O).2), (6, (minimaxL 3 [none, some X, some O, some O, some X, some X, some O, none, none] X O).2), (7, (minimaxL 3 [none, some X, some O, some O, some X, some X, none, some O, none] X O).2), (8, (minimaxL 3 [none, some X, some O, some O, some X, some X, none, none, some O] X O).2)] O = (some 7, 0)
  rw [mmv_1566, mmv_1832, mmv_1807, mmv_1833]
  rfl

theorem mmv_1837 : minimaxL 1 [none, some X, some O, some O, some O, some X, some X, some X, some O] X O = (some 0, 0) := by
  rw [minimaxL_succ 0 [none, some X, some O, some O, some O, some X, some X, some X, some O] X O [0] rfl rfl (List.cons_ne_nil _ _)]
  show pickBest [(0, (minimaxL 0 [some X, some X, some O, some O, some O, some X, some X, some X, some O] O X).2)] X = (some 0, 0)
  rw [mmv_0469]
  rfl

theorem mmv_1836 : minimaxL 2 [none, some X, some O, some O, some O, some X, some X, some X, none] O X = (some 8, 0) := by
  rw [minimaxL_succ 1 [none, some X, some O, some O, some O, some X, some X, some X, none] O X [0, 8] rfl rfl (List.cons_ne_nil _ _)]
  show pickBest [(0, (minimaxL 1 [some O, some X, some O, some O, some O, some X, some X, some X, none] X O).2), (8, (minimaxL 1 [none, some X, some O, some O, some O, some X, some X, some X, some O] X O).2)] O = (some 8, 0)
  rw [mmv_1574, mmv_1837]
  rfl

theorem mmv_1839 : minimaxL 1 [none, some X, some O, some O, some O, some X, some X, some O, some X] X O = (some 0, 0) := by
  rw [minimaxL_succ 0 [none, some X, some O, some O, some O, some X, some X, some O, some X] X O [0] rfl rfl (List.cons_ne_nil _ _)]
  show pickBest [(0, (minimaxL 0 [some X, some X, some O, some O, some O, some X, some X, some O, some X] O X).2)] X = (some 0, 0)
  rw [mmv_0467]
  rfl

theorem mmv_1838 : minimaxL 2 [none, some X, some O, some O, some O, some X, some X, none, some X] O X = (some 7, 0) := by
  rw [minimaxL_succ 1 [none, some X, some O, some O, some O, some X, some X, none, some X] O X [0, 7] rfl rfl (List.cons_ne_nil _ _)]
  show pickBest [(0, (minimaxL 1 [some O, some X, some O, some O, some O, some X, some X, none, some X] X O).2), (7, (minimaxL 1 [none, some X, some O, some O, some O, some X, some X, some O, some X] X O).2)] O = (some 7, 0)
  rw [mmv_1577, mmv_1839]
  rfl

theorem mmv_1835 : minimaxL 3 [none, some X, some O, some O, some O, some X, some X, none, none] X O = (some 8, 0) := by
  rw [minimaxL_succ 2 [none, some X, some O, some O, some O, some X, some X, none, none] X O [0, 7, 8] rfl rfl (List.cons_ne_nil _ _)]
  show pickBest [(0, (minimaxL 2 [some X, some X, some O, some O, some O, some X, some X, none, none] O X).2), (7, (minimaxL 2 [none, some X, some O, some O, some O, some X, some X, some X, none] O X).2), (8, (minimaxL 2 [none, some X, some O, some O, some O, some X, some X, none, some X] O X).2)] X = (some 8, 0)
  rw [mmv_0465, mmv_1836, mmv_1838]
  rfl

theorem mmv_1841 : minimaxL 2 [none, some X, some O, some O, none, some X, some X, some O, some X] O X = (some 0, 0) := by
  rw [minimaxL_succ 1 [none, some X, some O, some O, none, some X, some X, some O, some X] O X [0, 4] rfl rfl (List.cons_ne_nil _ _)]
  show pickBest [(0, (minimaxL 1 [some O, some X, some O, some O, none, some X, some X, some O, some X] X O).2), (4, (minimaxL 1 [none, some X, some O, some O, some O, some X, some X, some O, some X] X O).2)] O = (some 0, 0)
  rw [mmv_1578, mmv_1839]
  rfl

theorem mmv_1840 : minimaxL 3 [none, some X, some O, some O, none, some X, some X, some O, none] X O = (some 8, 0) := by
  rw [minimaxL_succ 2 [none, some X, some O, some O, none, some X, some X, some O, none] X O [0, 4, 8] rfl rfl (List.cons_ne_nil _ _)]
  show pickBest [(0, (minimaxL 2 [some X, some X, some O, some O, none, some X, some X, some O, none] O X).2), (4, (minimaxL 2 [none, some X, some O, some O, some X, some X, some X, some O, none] O X).2), (8, (minimaxL 2 [none, some X, some O, some O, none, some X, some X, some O, some X] O X).2)] X = (some 8, 0)
  rw [mmv_0482, mmv_1808, mmv_1841]
  rfl

theorem mmv_1843 : minimaxL 2 [none, some X, some O, some O, some X, some X, some X, none, some O] O X = (some 7, 0) := by
  rw [minimaxL_succ 1 [none, some X, some O, some O, some X, some X, some X, none, some O] O X [0, 7] rfl rfl (List.cons_ne_nil _ _)]
  show pickBest [(0, (minimaxL 1 [some O, some X, some O, some O, some X, some X, some X, none, some O] X O).2), (7, (minimaxL 1 [none, some X, some O, some O, some X, some X, some X, some O, some O] X O).2)] O = (some 7, 0)
  rw [mmv_1572, mmv_1809]
  rfl

theorem mmv_1844 : minimaxL 2 [none, some X, some O, some O, none, some X, some X, some X, some O] O X = (some 4, 0) := by
  rw [minimaxL_succ 1 [none, some X, some O, some O, none, some X, some X, some X, some O] O X [0, 4] rfl rfl (List.cons_ne_nil _ _)]
  show pickBest [(0, (minimaxL 1 [some O, some X, some O, some O, none, some X, some X, some X, some O] X O).2), (4, (minimaxL 1 [none, some X, some O, some O, some O, some X, some X, some X, some O] X O).2)] O = (some 4, 0)
  rw [mmv_1575, mmv_1837]
  rfl

theorem mmv_1842 : minimaxL 3 [none, some X, some O, some O, none, some X, some X, none, some O] X O = (some 7, 0) := by
  rw [minimaxL_succ 2 [none, some X, some O, some O, none, some X, some X, none, some O] X O [0, 4, 7] rfl rfl (List.cons_ne_nil _ _)]
  show pickBest [(0, (minimaxL 2 [some X, some X, some O, some O, none, some X, some X, none, some O] O X).2), (4, (minimaxL 2 [none, some X, some O, some O, some X, some X, some X, none, some O] O X).2), (7, (minimaxL 2 [none, some X, some O, some O, none, some X, some X, some X, some O] O X).2)] X = (some 7, 0)
  rw [mmv_0489, mmv_1843, mmv_1844]
  rfl

theorem mmv_1834 : minimaxL 4 [none, some X, some O, some O, none, some X, some X, none, none] O X = (some 4, 0) := by
  rw [minimaxL_succ 3 [none, some X, some O, some O, none, some X, some X, none, none] O X [0, 4, 7, 8] rfl rfl (List.cons_ne_nil _ _)]
  show pickBest [(0, (minimaxL 3 [some O, some X, some O, some O, none, some X, some X, none, none] X O).2), (4, (minimaxL 3 [none, some X, some O, some O, some O, some X, some X, none, none] X O).2), (7, (minimaxL 3 [none, some X, some O, some O, none, some X, some X, some O, none] X O).2), (8, (minimaxL 3 [none, some X, some O, some O, none, some X, some X, none, some O] X O).2)] O = (some 4, 0)
  rw [mmv_1570, mmv_1835, mmv_1840, mmv_1842]
  rfl

theorem mmv_1847 : minimaxL 2 [none, some X, some O, some O, some O, some X, none, some X, some X] O X = (some 6, -1) := rfl

theorem mmv_1846 : minimaxL 3 [none, some X, some O, some O, some O, some X, none, some X, none] X O = (some 6, 0) := by
  rw [minimaxL_succ 2 [none, some X, some O, some O, some O, some X, none, some X, none] X O [0, 6, 8] rfl rfl (List.cons_ne_nil _ _)]
  show pickBest [(0, (minimaxL 2 [some X, some X, some O, some O, some O, some X, none, some X, none] O X).2), (6, (minimaxL 2 [none, some X, some O, some O, some O, some X, some X, some X, none] O X).2), (8, (minimaxL 2 [none, some X, some O, some O, some O, some X, none, some X, some X] O X).2)] X = (some 6, 0)
  rw [mmv_0470, mmv_1836, mmv_1847]
  rfl

theorem mmv_1848 : minimaxL 3 [none, some X, some O, some O, none, some X, some O, some X, none] X O = (some 4, 1) := rfl

theorem mmv_1849 : minimaxL 3 [none, some X, some O, some O, none, some X, none, some X, some O] X O = (some 4, 1) := rfl

theorem mmv_1845 : minimaxL 4 [none, some X, some O, some O, none, some X, none, some X, none] O X = (some 4, 0) := by
  rw [minimaxL_succ 3 [none, some X, some O, some O, none, some X, none, some X, none] O X [0, 4, 6, 8] rfl rfl (List.cons_ne_nil _ _)]
  show pickBest [(0, (minimaxL 3 [some O, some X, some O, some O, none, some X, none, some X, none] X O).2), (4, (minimaxL 3 [none, some X, some O, some O, some O, some X, none, some X, none] X O).2), (6, (minimaxL 3 [none, some X, some O, some O, none, some X, some O, some X, none] X O).2), (8, (minimaxL 3 [none, some X, some O, some O, none, some X, none, some X, some O] X O).2)] O = (some 4, 0)
  rw [mmv_1589, mmv_1846, mmv_1848, mmv_1849]
  rfl

theorem mmv_1851 : minimaxL 3 [none, some X, some O, some O, some O, some X, none, none, some X] X O = (some 6, 0) := by
  rw [minimaxL_succ 2 [none, some X, some O, some O, some O, some X, none, none, some X] X O [0, 6, 7] rfl rfl (List.cons_ne_nil _ _)]
  show pickBest [(0, (minimaxL 2 [some X, some X, some O, some O, some O, some X, none, none, some X] O X).2), (6, (minimaxL 2 [none, some X, some O, some O, some O, some X, some X, none, some X] O X).2), (7, (minimaxL 2 [none, some X, some O, some O, some O, some X, none, some X, some X] O X).2)] X = (some 6, 0)
  rw [mmv_0471, mmv_1838, mmv_1847]
  rfl

theorem mmv_1853 : minimaxL 2 [none, some X, some O, some O, some X, some X, some O, none, some X] O X = (some 0, -1) := rfl

theorem mmv_1854 : minimaxL 2 [none, some X, some O, some O, none, some X, some O, some X, some X] O X = (some 4, -1) := rfl

theorem mmv_1852 : minimaxL 3 [none, some X, some O, some O, none, some X, some O, none, some X] X O = (some 7, -1) := by
  rw [minimaxL_succ 2 [none, some X, some O, some O, none, some X, some O, none, some X] X O [0, 4, 7] rfl rfl (List.cons_ne_nil _ _)]
  show pickBest [(0, (minimaxL 2 [some X, some X, some O, some O, none, some X, some O, none, some X] O X).2), (4, (minimaxL 2 [none, some X, some O, some O, some X, some X, some O, none, some X] O X).2), (7, (minimaxL 2 [none, some X, some O, some O, none, some X, some O, some X, some X] O X).2)] X = (some 7, -1)
  rw [mmv_0477, mmv_1853, mmv_1854]
  rfl

theorem mmv_1855 : minimaxL 3 [none, some X, some O, some O, none, some X, none, some O, some X] X O = (some 6, 0) := by
  rw [minimaxL_succ 2 [none, some X, some O, some O, none, some X, none, some O, some X] X O [0, 4, 6] rfl rfl (List.cons_ne_nil _ _)]
  show pickBest [(0, (minimaxL 2 [some X, some X, some O, some O, none, some X, none, some O, some X] O X).2), (4, (minimaxL 2 [none, some X, some O, some O, some X, some X, none, some O, some X] O X).2), (6, (minimaxL 2 [none, some X, some O, some O, none, some X, some X, some O, some X] O X).2)] X = (some 6, 0)
  rw [mmv_0484, mmv_1810, mmv_1841]
  rfl

theorem mmv_1850 : minimaxL 4 [none, some X, some O, some O, none, some X, none, none, some X] O X = (some 6, -1) := by
  rw [minimaxL_succ 3 [none, some X, some O, some O, none, some X, none, none, some X] O X [0, 4, 6, 7] rfl rfl (List.cons_ne_nil _ _)]
  show pickBest [(0, (minimaxL 3 [some O, some X, some O, some O, none, some X, none, none, some X] X O).2), (4, (minimaxL 3 [none, some X, some O, some O, some O, some X, none, none, some X] X O).2), (6, (minimaxL 3 [none, some X, some O, some O, none, some X, some O, none, some X] X O).2), (7, (minimaxL 3 [none, some X, some O, some O, none, some X, none, some O, some X] X O).2)] O = (some 6, -1)
  rw [mmv_1595, mmv_1851, mmv_1852, mmv_1855]
  rfl

theorem mmv_1830 : minimaxL 5 [none, some X, some O, some O, none, some X, none, none, none] X O = (some 7, 0) := by
  rw [minimaxL_succ 4 [none, some X, some O, some O, none, some X, none, none, none] X O [0, 4, 6, 7, 8] rfl rfl (List.cons_ne_nil _ _)]
  show pickBest [(0, (minimaxL 4 [some X, some X, some O, some O, none, some X, none, none, none] O X).2), (4, (minimaxL 4 [none, some X, some O, some O, some X, some X, none, none, none] O X).2), (6, (minimaxL 4 [none, some X, some O, some O, none, some X, some X, none, none] O X).2), (7, (minimaxL 4 [none, some X, some O, some O, none, some X, none, some X, none] O X).2), (8, (minimaxL 4 [none, some X, some O, some O, none, some X, none, none, some X] O X).2)] X = (some 7, 0)
  rw [mmv_0463, mmv_1831, mmv_1834, mmv_1845, mmv_1850]
  rfl

theorem mmv_1859 : minimaxL 2 [none, some X, some O, none, some O, some X, some X, some O, some X] O X = (some 0, 0) := by
  rw [minimaxL_succ 1 [none, some X, some O, none, some O, some X, some X, some O, some X] O X [0, 3] rfl rfl (List.cons_ne_nil _ _)]
  show pickBest [(0, (minimaxL 1 [some O, some X, some O, none, some O, some X, some X, some O, some X] X O).2), (3, (minimaxL 1 [none, some X, some O, some O, some O, some X, some X, some O, some X] X O).2)] O = (some 0, 0)
  rw [mmv_1582, mmv_1839]
  rfl

theorem mmv_1858 : minimaxL 3 [none, some X, some O, none, some O, some X, some X, some O, none] X O = (some 8, 0) := by
  rw [minimaxL_succ 2 [none, some X, some O, none, some O, some X, some X, some O, none] X O [0, 3, 8] rfl rfl (List.cons_ne_nil _ _)]
  show pickBest [(0, (minimaxL 2 [some X, some X, some O, none, some O, some X, some X, some O, none] O X).2), (3, (minimaxL 2 [none, some X, some O, some X, some O, some X, some X, some O, none] O X).2), (8, (minimaxL 2 [none, some X, some O, none, some O, some X, some X, some O, some X] O X).2)] X = (some 8, 0)
  rw [mmv_0570, mmv_1778, mmv_1859]
  rfl

theorem mmv_1861 : minimaxL 2 [none, some X, some O, none, some O, some X, some X, some X, some O] O X = (some 0, -1) := rfl

theorem mmv_1860 : minimaxL 3 [none, some X, some O, none, some O, some X, some X, none, some O] X O = (some 0, 0) := by
  rw [minimaxL_succ 2 [none, some X, some O, none, some O, some X, some X, none, some O] X O [0, 3, 7] rfl rfl (List.cons_ne_nil _ _)]
  show pickBest [(0, (minimaxL 2 [some X, some X, some O, none, some O, some X, some X, none, some O] O X).2), (3, (minimaxL 2 [none, some X, some O, some X, some O, some X, some X, none, some O] O X).2), (7, (minimaxL 2 [none, some X, some O, none, some O, some X, some X, some X, some O] O X).2)] X = (some 0, 0)
  rw [mmv_0594, mmv_1796, mmv_1861]
  rfl

theorem mmv_1857 : minimaxL 4 [none, some X, some O, none, some O, some X, some X, none, none] O X = (some 0, 0) := by
  rw [minimaxL_succ 3 [none, some X, some O, none, some O, some X, some X, none, none] O X [0, 3, 7, 8] rfl rfl (List.cons_ne_nil _ _)]
  show pickBest [(0, (minimaxL 3 [some O, some X, some O, none, some O, some X, some X, none, none] X O).2), (3, (minimaxL 3 [none, some X, some O, some O, some O, some X, some X, none, none] X O).2), (7, (minimaxL 3 [none, some X, some O, none, some O, some X, some X, some O, none] X O).2), (8, (minimaxL 3 [none, some X, some O, none, some O, some X, some X, none, some O] X O).2)] O = (some 0, 0)
  rw [mmv_1579, mmv_1835, mmv_1858, mmv_1860]
  rfl

theorem mmv_1862 : minimaxL 4 [none, some X, some O, none, some O, some X, none, some X, none] O X = (some 6, -1) := rfl

theorem mmv_1863 : minimaxL 4 [none, some X, some O, none, some O, some X, none, none, some X] O X = (some 6, -1) := rfl

theorem mmv_1856 : minimaxL 5 [none, some X, some O, none, some O, some X, none, none, none] X O = (some 6, 0) := by
  rw [minimaxL_succ 4 [none, some X, some O, none, some O, some X, none, none, none] X O [0, 3, 6, 7, 8] rfl rfl (List.cons_ne_nil _ _)]
  show pickBest [(0, (minimaxL 4 [some X, some X, some O, none, some O, some X, none, none, none] O X).2), (3, (minimaxL 4 [none, some X, some O, some X, some O, some X, none, none, none] O X).2), (6, (minimaxL 4 [none, some X, some O, none, some O, some X, some X, none, none] O X).2), (7, (minimaxL 4 [none, some X, some O, none, some O, some X, none, some X, none] O X).2), (8, (minimaxL 4 [none, some X, some O, none, some O, some X, none, none, some X] O X).2)] X = (some 6, 0)
  rw [mmv_0524, mmv_1736, mmv_1857, mmv_1862, mmv_1863]
  rfl

theorem mmv_1866 : minimaxL 3 [none, some X, some O, none, some X, some X, some O, none, some O] X O = (some 7, 1) := rfl

theorem mmv_1865 : minimaxL 4 [none, some X, some O, none, some X, some X, some O, none, none] O X = (some 0, 1) := by
  rw [minimaxL_succ 3 [none, some X, some O, none, some X, some X, some O, none, none] O X [0, 3, 7, 8] rfl rfl (List.cons_ne_nil _ _)]
  show pickBest [(0, (minimaxL 3 [some O, some X, some O, none, some X, some X, some O, none, none] X O).2), (3, (minimaxL 3 [none, some X, some O, some O, some X, some X, some O, none, none] X O).2), (7, (minimaxL 3 [none, some X, some O, none, some X, some X, some O, some O, none] X O).2), (8, (minimaxL 3 [none, some X, some O, none, some X, some X, some O, none, some O] X O).2)] O = (some 0, 1)
  rw [mmv_1567, mmv_1832, mmv_1812, mmv_1866]
  rfl

theorem mmv_1867 : minimaxL 4 [none, some X, some O, none, none, some X, some O, some X, none] O X = (some 4, -1) := rfl

theorem mmv_1868 : minimaxL 4 [none, some X, some O, none, none, some X, some O, none, some X] O X = (some 4, -1) := rfl

theorem mmv_1864 : minimaxL 5 [none, some X, some O, none, none, some X, some O, none, none] X O = (some 4, 1) := by
  rw [minimaxL_succ 4 [none, some X, some O, none, none, some X, some O, none, none] X O [0, 3, 4, 7, 8] rfl rfl (List.cons_ne_nil _ _)]
  show pickBest [(0, (minimaxL 4 [some X, some X, some O, none, none, some X, some O, none, none] O X).2), (3, (minimaxL 4 [none, some X, some O, some X, none, some X, some O, none, none] O X).2), (4, (minimaxL 4 [none, some X, some O, none, some X, some X, some O, none, none] O X).2), (7, (minimaxL 4 [none, some X, some O, none, none, some X, some O, some X, none] O X).2), (8, (minimaxL 4 [none, some X, some O, none, none, some X, some O, none, some X] O X).2)] X = (some 4, 1)
  rw [mmv_0549, mmv_1767, mmv_1865, mmv_1867, mmv_1868]
  rfl

theorem mmv_1872 : minimaxL 2 [none, some X, some O, some X, none, some X, some X, some O, some O] O X = (some 0, 1) := by
  rw [minimaxL_succ 1 [none, some X, some O, some X, none, some X, some X, some O, some O] O X [0, 4] rfl rfl (List.cons_ne_nil _ _)]
  show pickBest [(0, (minimaxL 1 [some O, some X, some O, some X, none, some X, some X, some O, some O] X O).2), (4, (minimaxL 1 [none, some X, some O, some X, some O, some X, some X, some O, some O] X O).2)] O = (some 0, 1)
  rw [mmv_1414, mmv_1779]
  rfl

theorem mmv_1871 : minimaxL 3 [none, some X, some O, none, none, some X, some X, some O, some O] X O = (some 3, 1) := by
  rw [minimaxL_succ 2 [none, some X, some O, none, none, some X, some X, some O, some O] X O [0, 3, 4] rfl rfl (List.cons_ne_nil _ _)]
  show pickBest [(0, (minimaxL 2 [some X, some X, some O, none, none, some X, some X, some O, some O] O X).2), (3, (minimaxL 2 [none, some X, some O, some X, none, some X, some X, some O, some O] O X).2), (4, (minimaxL 2 [none, some X, some O, none, some X, some X, some X, some O, some O] O X).2)] X = (some 3, 1)
  rw [mmv_0578, mmv_1872, mmv_1823]
  rfl

theorem mmv_1870 : minimaxL 4 [none, some X, some O, none, none, some X, some X, some O, none] O X = (some 0, 0) := by
  rw [minimaxL_succ 3 [none, some X, some O, none, none, some X, some X, some O, none] O X [0, 3, 4, 8] rfl rfl (List.cons_ne_nil _ _)]
  show pickBest [(0, (minimaxL 3 [some O, some X, some O, none, none, some X, some X, some O, none] X O).2), (3, (minimaxL 3 [none, some X, some O, some O, none, some X, some X, some O, none] X O).2), (4, (minimaxL 3 [none, some X, some O, none, some O, some X, some X, some O, none] X O).2), (8, (minimaxL 3 [none, some X, some O, none, none, some X, some X, some O, some O] X O).2)] O = (some 0, 0)
  rw [mmv_1583, mmv_1840, mmv_1858, mmv_1871]
  rfl

theorem mmv_1874 : minimaxL 3 [none, some X, some O, none, some O, some X, none, some O, some X] X O = (some 6, 0) := by
  rw [minimaxL_succ 2 [none, some X, some O, none, some O, some X, none, some O, some X] X O [0, 3, 6] rfl rfl (List.cons_ne_nil _ _)]
  show pickBest [(0, (minimaxL 2 [some X, some X, some O, none, some O, some X, none, some O, some X] O X).2), (3, (minimaxL 2 [none, some X, some O, some X, some O, some X, none, some O, some X] O X).2), (6, (minimaxL 2 [none, some X, some O, none, some O, some X, some X, some O, some X] O X).2)] X = (some 6, 0)
  rw [mmv_0572, mmv_1780, mmv_1859]
  rfl

theorem mmv_1876 : minimaxL 2 [none, some X, some O, none, some X, some X, some O, some O, some X] O X = (some 0, 1) := by
  rw [minimaxL_succ 1 [none, some X, some O, none, some X, some X, some O, some O, some X] O X [0, 3] rfl rfl (List.cons_ne_nil _ _)]
  show pickBest [(0, (minimaxL 1 [some O, some X, some O, none, some X, some X, some O, some O, some X] X O).2), (3, (minimaxL 1 [none, some X, some O, some O, some X, some X, some O, some O, some X] X O).2)] O = (some 0, 1)
  rw [mmv_1553, mmv_1811]
  rfl

theorem mmv_1875 : minimaxL 3 [none, some X, some O, none, none, some X, some O, some O, some X] X O = (some 4, 1) := by
  rw [minimaxL_succ 2 [none, some X, some O, none, none, some X, some O, some O, some X] X O [0, 3, 4] rfl rfl (List.cons_ne_nil _ _)]
  show pickBest [(0, (minimaxL 2 [some X, some X, some O, none, none, some X, some O, some O, some X] O X).2), (3, (minimaxL 2 [none, some X, some O, some X, none, some X, some O, some O, some X] O X).2), (4, (minimaxL 2 [none, some X, some O, none, some X, some X, some O, some O, some X] O X).2)] X = (some 4, 1)
  rw [mmv_0575, mmv_1791, mmv_1876]
  rfl

theorem mmv_1873 : minimaxL 4 [none, some X, some O, none, none, some X, none, some O, some X] O X = (some 0, 0) := by
  rw [minimaxL_succ 3 [none, some X, some O, none, none, some X, none, some O, some X] O X [0, 3, 4, 6] rfl rfl (List.cons_ne_nil _ _)]
  show pickBest [(0, (minimaxL 3 [some O, some X, some O, none, none, some X, none, some O, some X] X O).2), (3, (minimaxL 3 [none, some X, some O, some O, none, some X, none, some O, some X] X O).2), (4, (minimaxL 3 [none, some X, some O, none, some O, some X, none, some O, some X] X O).2), (6, (minimaxL 3 [none, some X, some O, none, none, some X, some O, some O, some X] X O).2)] O = (some 0, 0)
  rw [mmv_1602, mmv_1855, mmv_1874, mmv_1875]
  rfl

theorem mmv_1869 : minimaxL 5 [none, some X, some O, none, none, some X, none, some O, none] X O = (some 8, 0) := by
  rw [minimaxL_succ 4 [none, some X, some O, none, none, some X, none, some O, none] X O [0, 3, 4, 6, 8] rfl rfl (List.cons_ne_nil _ _)]
  show pickBest [(0, (minimaxL 4 [some X, some X, some O, none, none, some X, none, some O, none] O X).2), (3, (minimaxL 4 [none, some X, some O, some X, none, some X, none, some O, none] O X).2), (4, (minimaxL 4 [none, some X, some O, none, some X, some X, none, some O, none] O X).2), (6, (minimaxL 4 [none, some X, some O, none, none, some X, some X, some O, none] O X).2), (8, (minimaxL 4 [none, some X, some O, none, none, some X, none, some O, some X] O X).2)] X = (some 8, 0)
  rw [mmv_0567, mmv_1776, mmv_1806, mmv_1870, mmv_1873]
  rfl

theorem mmv_1878 : minimaxL 4 [none, some X, some O, none, some X, some X, none, none, some O] O X = (some 0, 1) := by
  rw [minimaxL_succ 3 [none, some X, some O, none, some X, some X, none, none, some O] O X [0, 3, 6, 7] rfl rfl (List.cons_ne_nil _ _)]
  show pickBest [(0, (minimaxL 3 [some O, some X, some O, none, some X, some X, none, none, some O] X O).2), (3, (minimaxL 3 [none, some X, some O, some O, some X, some X, none, none, some O] X O).2), (6, (minimaxL 3 [none, some X, some O, none, some X, some X, some O, none, some O] X O).2), (7, (minimaxL 3 [none, some X, some O, none, some X, some X, none, some O, some O] X O).2)] O = (some 0, 1)
  rw [mmv_1568, mmv_1833, mmv_1866, mmv_1813]
  rfl

theorem mmv_1879 : minimaxL 4 [none, some X, some O, none, none, some X, some X, none, some O] O X = (some 3, 0) := by
  rw [minimaxL_succ 3 [none, some X, some O, none, none, some X, some X, none, some O] O X [0, 3, 4, 7] rfl rfl (List.cons_ne_nil _ _)]
  show pickBest [(0, (minimaxL 3 [some O, some X, some O, none, none, some X, some X, none, some O] X O).2), (3, (minimaxL 3 [none, some X, some O, some O, none, some X, some X, none, some O] X O).2), (4, (minimaxL 3 [none, some X, some O, none, some O, some X, some X, none, some O] X O).2), (7, (minimaxL 3 [none, some X, some O, none, none, some X, some X, some O, some O] X O).2)] O = (some 3, 0)
  rw [mmv_1585, mmv_1842, mmv_1860, mmv_1871]
  rfl

theorem mmv_1881 : minimaxL 3 [none, some X, some O, none, some O, some X, none, some X, some O] X O = (some 6, -1) := by
  rw [minimaxL_succ 2 [none, some X, some O, none, some O, some X, none, some X, some O] X O [0, 3, 6] rfl rfl (List.cons_ne_nil _ _)]
  show pickBest [(0, (minimaxL 2 [some X, some X, some O, none, some O, some X, none, some X, some O] O X).2), (3, (minimaxL 2 [none, some X, some O, some X, some O, some X, none, some X, some O] O X).2), (6, (minimaxL 2 [none, some X, some O, none, some O, some X, some X, some X, some O] O X).2)] X = (some 6, -1)
  rw [mmv_0595, mmv_1797, mmv_1861]
  rfl

theorem mmv_1882 : minimaxL 3 [none, some X, some O, none, none, some X, some O, some X, some O] X O = (some 4, 1) := rfl

theorem mmv_1880 : minimaxL 4 [none, some X, some O, none, none, some X, none, some X, some O] O X = (some 4, -1) := by
  rw [minimaxL_succ 3 [none, some X, some O, none, none, some X, none, some X, some O] O X [0, 3, 4, 6] rfl rfl (List.cons_ne_nil _ _)]
  show pickBest [(0, (minimaxL 3 [some O, some X, some O, none, none, some X, none, some X, some O] X O).2), (3, (minimaxL 3 [none, some X, some O, some O, none, some X, none, some X, some O] X O).2), (4, (minimaxL 3 [none, some X, some O, none, some O, some X, none, some X, some O] X O).2), (6, (minimaxL 3 [none, some X, some O, none, none, some X, some O, some X, some O] X O).2)] O = (some 4, -1)
  rw [mmv_1593, mmv_1849, mmv_1881, mmv_1882]
  rfl

theorem mmv_1877 : minimaxL 5 [none, some X, some O, none, none, some X, none, none, some O] X O = (some 4, 1) := by
  rw [minimaxL_succ 4 [none, some X, some O, none, none, some X, none, none, some O] X O [0, 3, 4, 6, 7] rfl rfl (List.cons_ne_nil _ _)]
  show pickBest [(0, (minimaxL 4 [some X, some X, some O, none, none, some X, none, none, some O] O X).2), (3, (minimaxL 4 [none, some X, some O, some X, none, some X, none, none, some O] O X).2), (4, (minimaxL 4 [none, some X, some O, none, some X, some X, none, none, some O] O X).2), (6, (minimaxL 4 [none, some X, some O, none, none, some X, some X, none, some O] O X).2), (7, (minimaxL 4 [none, some X, some O, none, none, some X, none, some X, some O] O X).2)] X = (some 4, 1)
  rw [mmv_0591, mmv_1794, mmv_1878, mmv_1879, mmv_1880]
  rfl

theorem mmv_1829 : minimaxL 6 [none, some X, some O, none, none, some X, none, none, none] O X = (some 3, 0) := by
  rw [minimaxL_succ 5 [none, some X, some O, none, none, some X, none, none, none] O X [0, 3, 4, 6, 7, 8] rfl rfl (List.cons_ne_nil _ _)]
  show pickBest [(0, (minimaxL 5 [some O, some X, some O, none, none, some X, none, none, none] X O).2), (3, (minimaxL 5 [none, some X, some O, some O, none, some X, none, none, none] X O).2), (4, (minimaxL 5 [none, some X, some O, none, some O, some X, none, none, none] X O).2), (6, (minimaxL 5 [none, some X, some O, none, none, some X, some O, none, none] X O).2), (7, (minimaxL 5 [none, some X, some O, none, none, some X, none, some O, none] X O).2), (8, (minimaxL 5 [none, some X, some O, none, none, some X, none, none, some O] X O).2)] O = (some 3, 0)
  rw [mmv_1564, mmv_1830, mmv_1856, mmv_1864, mmv_1869, mmv_1877]
  rfl

theorem mmv_1886 : minimaxL 3 [none, some X, some O, some O, some X, some O, some X, none, none] X O = (some 7, 1) := rfl

theorem mmv_1887 : minimaxL 3 [none, some X, some O, some O, some X, none, some X, none, some O] X O = (some 7, 1) := rfl

theorem mmv_1885 : minimaxL 4 [none, some X, some O, some O, some X, none, some X, none, none] O X = (some 7, 0) := by
  rw [minimaxL_succ 3 [none, some X, some O, some O, some X, none, some X, none, none] O X [0, 5, 7, 8] rfl rfl (List.cons_ne_nil _ _)]
  show pickBest [(0, (minimaxL 3 [some O, some X, some O, some O, some X, none, some X, none, none] X O).2), (5, (minimaxL 3 [none, some X, some O, some O, some X, some O, some X, none, none] X O).2), (7, (minimaxL 3 [none, some X, some O, some O, some X, none, some X, some O, none] X O).2), (8, (minimaxL 3 [none, some X, some O, some O, some X, none, some X, none, some O] X O).2)] O = (some 7, 0)
  rw [mmv_1650, mmv_1886, mmv_1815, mmv_1887]
  rfl

theorem mmv_1889 : minimaxL 3 [none, some X, some O, some O, some O, none, some X, some X, none] X O = (some 8, 1) := rfl

theorem mmv_1890 : minimaxL 3 [none, some X, some O, some O, none, some O, some X, some X, none] X O = (some 4, 1) := rfl

theorem mmv_1891 : minimaxL 3 [none, some X, some O, some O, none, none, some X, some X, some O] X O = (some 4, 1) := rfl

theorem mmv_1888 : minimaxL 4 [none, some X, some O, some O, none, none, some X, some X, none] O X = (some 0, 1) := by
  rw [minimaxL_succ 3 [none, some X, some O, some O, none, none, some X, some X, none] O X [0, 4, 5, 8] rfl rfl (List.cons_ne_nil _ _)]
  show pickBest [(0, (minimaxL 3 [some O, some X, some O, some O, none, none, some X, some X, none] X O).2), (4, (minimaxL 3 [none, some X, some O, some O, some O, none, some X, some X, none] X O).2), (5, (minimaxL 3 [none, some X, some O, some O, none, some O, some X, some X, none] X O).2), (8, (minimaxL 3 [none, some X, some O, some O, none, none, some X, some X, some O] X O).2)] O = (some 0, 1)
  rw [mmv_1654, mmv_1889, mmv_1890, mmv_1891]
  rfl

theorem mmv_1893 : minimaxL 3 [none, some X, some O, some O, some O, none, some X, none, some X] X O = (some 7, 1) := rfl

theorem mmv_1894 : minimaxL 3 [none, some X, some O, some O, none, some O, some X, none, some X] X O = (some 7, 1) := rfl

theorem mmv_1895 : minimaxL 3 [none, some X, some O, some O, none, none, some X, some O, some X] X O = (some 5, 0) := by
  rw [minimaxL_succ 2 [none, some X, some O, some O, none, none, some X, some O, some X] X O [0, 4, 5] rfl rfl (List.cons_ne_nil _ _)]
  show pickBest [(0, (minimaxL 2 [some X, some X, some O, some O, none, none, some X, some O, some X] O X).2), (4, (minimaxL 2 [none, some X, some O, some O, some X, none, some X, some O, some X] O X).2), (5, (minimaxL 2 [none, some X, some O, some O, none, some X, some X, some O, some X] O X).2)] X = (some 5, 0)
  rw [mmv_0505, mmv_1816, mmv_1841]
  rfl

theorem mmv_1892 : minimaxL 4 [none, some X, some O, some O, none, none, some X, none, some X] O X = (some 7, 0) := by
  rw [minimaxL_succ 3 [none, some X, some O, some O, none, none, some X, none, some X] O X [0, 4, 5, 7] rfl rfl (List.cons_ne_nil _ _)]
  show pickBest [(0, (minimaxL 3 [some O, some X, some O, some O, none, none, some X, none, some X] X O).2), (4, (minimaxL 3 [none, some X, some O, some O, some O, none, some X, none, some X] X O).2), (5, (minimaxL 3 [none, some X, some O, some O, none, some O, some X, none, some X] X O).2), (7, (minimaxL 3 [none, some X, some O, some O, none, none, some X, some O, some X] X O).2)] O = (some 7, 0)
  rw [mmv_1659, mmv_1893, mmv_1894, mmv_1895]
  rfl

theorem mmv_1884 : minimaxL 5 [none, some X, some O, some O, none, none, some X, none, none] X O = (some 7, 1) := by
  rw [minimaxL_succ 4 [none, some X, some O, some O, none, none, some X, none, none] X O [0, 4, 5, 7, 8] rfl rfl (List.cons_ne_nil _ _)]
  show pickBest [(0, (minimaxL 4 [some X, some X, some O, some O, none, none, some X, none, none] O X).2), (4, (minimaxL 4 [none, some X, some O, some O, some X, none, some X, none, none] O X).2), (5, (minimaxL 4 [none, some X, some O, some O, none, some X, some X, none, none] O X).2), (7, (minimaxL 4 [none, some X, some O, some O, none, none, some X, some X, none] O X).2), (8, (minimaxL 4 [none, some X, some O, some O, none, none, some X, none, some X] O X).2)] X = (some 7, 1)
  rw [mmv_0493, mmv_1885, mmv_1834, mmv_1888, mmv_1892]
  rfl

theorem mmv_1898 : minimaxL 3 [none, some X, some O, none, some O, some O, some X, some X, none] X O = (some 8, 1) := rfl

theorem mmv_1900 : minimaxL 2 [none, some X, some O, some X, some O, none, some X, some X, some O] O X = (some 5, -1) := rfl

theorem mmv_1899 : minimaxL 3 [none, some X, some O, none, some O, none, some X, some X, some O] X O = (some 5, -1) := by
  rw [minimaxL_succ 2 [none, some X, some O, none, some O, none, some X, some X, some O] X O [0, 3, 5] rfl rfl (List.cons_ne_nil _ _)]
  show pickBest [(0, (minimaxL 2 [some X, some X, some O, none, some O, none, some X, some X, some O] O X).2), (3, (minimaxL 2 [none, some X, some O, some X, some O, none, some X, some X, some O] O X).2), (5, (minimaxL 2 [none, some X, some O, none, some O, some X, some X, some X, some O] O X).2)] X = (some 5, -1)
  rw [mmv_1031, mmv_1900, mmv_1861]
  rfl

theorem mmv_1897 : minimaxL 4 [none, some X, some O, none, some O, none, some X, some X, none] O X = (some 8, -1) := by
  rw [minimaxL_succ 3 [none, some X, some O, none, some O, none, some X, some X, none] O X [0, 3, 5, 8] rfl rfl (List.cons_ne_nil _ _)]
  show pickBest [(0, (minimaxL 3 [some O, some X, some O, none, some O, none, some X, some X, none] X O).2), (3, (minimaxL 3 [none, some X, some O, some O, some O, none, some X, some X, none] X O).2), (5, (minimaxL 3 [none, some X, some O, none, some O, some O, some X, some X, none] X O).2), (8, (minimaxL 3 [none, some X, some O, none, some O, none, some X, some X, some O] X O).2)] O = (some 8, -1)
  rw [mmv_1655, mmv_1889, mmv_1898, mmv_1899]
  rfl

theorem mmv_1902 : minimaxL 3 [none, some X, some O, none, some O, some O, some X, none, some X] X O = (some 7, 1) := rfl

theorem mmv_1903 : minimaxL 3 [none, some X, some O, none, some O, none, some X, some O, some X] X O = (some 5, 0) := by
  rw [minimaxL_succ 2 [none, some X, some O, none, some O, none, some X, some O, some X] X O [0, 3, 5] rfl rfl (List.cons_ne_nil _ _)]
  show pickBest [(0, (minimaxL 2 [some X, some X, some O, none, some O, none, some X, some O, some X] O X).2), (3, (minimaxL 2 [none, some X, some O, some X, some O, none, some X, some O, some X] O X).2), (5, (minimaxL 2 [none, some X, some O, none, some O, some X, some X, some O, some X] O X).2)] X = (some 5, 0)
  rw [mmv_0585, mmv_1788, mmv_1859]
  rfl

theorem mmv_1901 : minimaxL 4 [none, some X, some O, none, some O, none, some X, none, some X] O X = (some 7, 0) := by
  rw [minimaxL_succ 3 [none, some X, some O, none, some O, none, some X, none, some X] O X [0, 3, 5, 7] rfl rfl (List.cons_ne_nil _ _)]
  show pickBest [(0, (minimaxL 3 [some O, some X, some O, none, some O, none, some X, none, some X] X O).2), (3, (minimaxL 3 [none, some X, some O, some O, some O, none, some X, none, some X] X O).2), (5, (minimaxL 3 [none, some X, some O, none, some O, some O, some X, none, some X] X O).2), (7, (minimaxL 3 [none, some X, some O, none, some O, none, some X, some O, some X] X O).2)] O = (some 7, 0)
  rw [mmv_1660, mmv_1893, mmv_1902, mmv_1903]
  rfl

theorem mmv_1896 : minimaxL 5 [none, some X, some O, none, some O, none, some X, none, none] X O = (some 8, 0) := by
  rw [minimaxL_succ 4 [none, some X, some O, none, some O, none, some X, none, none] X O [0, 3, 5, 7, 8] rfl rfl (List.cons_ne_nil _ _)]
  show pickBest [(0, (minimaxL 4 [some X, some X, some O, none, some O, none, some X, none, none] O X).2), (3, (minimaxL 4 [none, some X, some O, some X, some O, none, some X, none, none] O X).2), (5, (minimaxL 4 [none, some X, some O, none, some O, some X, some X, none, none] O X).2), (7, (minimaxL 4 [none, some X, some O, none, some O, none, some X, some X, none] O X).2), (8, (minimaxL 4 [none, some X, some O, none, some O, none, some X, none, some X] O X).2)] X = (some 8, 0)
  rw [mmv_0525, mmv_1737, mmv_1857, mmv_1897, mmv_1901]
  rfl

theorem mmv_1905 : minimaxL 4 [none, some X, some O, none, some X, some O, some X, none, none] O X = (some 8, -1) := rfl

theorem mmv_1906 : minimaxL 4 [none, some X, some O, none, none, some O, some X, some X, none] O X = (some 8, -1) := rfl

theorem mmv_1909 : minimaxL 2 [some X, some X, some O, none, none, some O, some X, some O, some X] O X = (some 3, 1) := by
  rw [minimaxL_succ 1 [some X, some X, some O, none, none, some O, some X, some O, some X] O X [3, 4] rfl rfl (List.cons_ne_nil _ _)]
  show pickBest [(3, (minimaxL 1 [some X, some X, some O, some O, none, some O, some X, some O, some X] X O).2), (4, (minimaxL 1 [some X, some X, some O, none, some O, some O, some X, some O, some X] X O).2)] O = (some 3, 1)
  rw [mmv_0507, mmv_0586]
  rfl

theorem mmv_1908 : minimaxL 3 [none, some X, some O, none, none, some O, some X, some O, some X] X O = (some 0, 1) := by
  rw [minimaxL_succ 2 [none, some X, some O, none, none, some O, some X, some O, some X] X O [0, 3, 4] rfl rfl (List.cons_ne_nil _ _)]
  show pickBest [(0, (minimaxL 2 [some X, some X, some O, none, none, some O, some X, some O, some X] O X).2), (3, (minimaxL 2 [none, some X, some O, some X, none, some O, some X, some O, some X] O X).2), (4, (minimaxL 2 [none, some X, some O, none, some X, some O, some X, some O, some X] O X).2)] X = (some 0, 1)
  rw [mmv_1909, mmv_1761, mmv_1820]
  rfl

theorem mmv_1907 : minimaxL 4 [none, some X, some O, none, none, some O, some X, none, some X] O X = (some 0, 1) := by
  rw [minimaxL_succ 3 [none, some X, some O, none, none, some O, some X, none, some X] O X [0, 3, 4, 7] rfl rfl (List.cons_ne_nil _ _)]
  show pickBest [(0, (minimaxL 3 [some O, some X, some O, none, none, some O, some X, none, some X] X O).2), (3, (minimaxL 3 [none, some X, some O, some O, none, some O, some X, none, some X] X O).2), (4, (minimaxL 3 [none, some X, some O, none, some O, some O, some X, none, some X] X O).2), (7, (minimaxL 3 [none, some X, some O, none, none, some O, some X, some O, some X] X O).2)] O = (some 0, 1)
  rw [mmv_1661, mmv_1894, mmv_1902, mmv_1908]
  rfl

theorem mmv_1904 : minimaxL 5 [none, some X, some O, none, none, some O, some X, none, none] X O = (some 8, 1) := by
  rw [minimaxL_succ 4 [none, some X, some O, none, none, some O, some X, none, none] X O [0, 3, 4, 7, 8] rfl rfl (List.cons_ne_nil _ _)]
  show pickBest [(0, (minimaxL 4 [some X, some X, some O, none, none, some O, some X, none, none] O X).2), (3, (minimaxL 4 [none, some X, some O, some X, none, some O, some X, none, none] O X).2), (4, (minimaxL 4 [none, some X, some O, none, some X, some O, some X, none, none] O X).2), (7, (minimaxL 4 [none, some X, some O, none, none, some O, some X, some X, none] O X).2), (8, (minimaxL 4 [none, some X, some O, none, none, some O, some X, none, some X] O X).2)] X = (some 8, 1)
  rw [mmv_0534, mmv_1745, mmv_1905, mmv_1906, mmv_1907]
  rfl

theorem mmv_1911 : minimaxL 4 [none, some X, some O, none, none, none, some X, some O, some X] O X = (some 0, 0) := by
  rw [minimaxL_succ 3 [none, some X, some O, none, none, none, some X, some O, some X] O X [0, 3, 4, 5] rfl rfl (List.cons_ne_nil _ _)]
  show pickBest [(0, (minimaxL 3 [some O, some X, some O, none, none, none, some X, some O, some X] X O).2), (3, (minimaxL 3 [none, some X, some O, some O, none, none, some X, some O, some X] X O).2), (4, (minimaxL 3 [none, some X, some O, none, some O, none, some X, some O, some X] X O).2), (5, (minimaxL 3 [none, some X, some O, none, none, some O, some X, some O, some X] X O).2)] O = (some 0, 0)
  rw [mmv_1662, mmv_1895, mmv_1903, mmv_1908]
  rfl

theorem mmv_1910 : minimaxL 5 [none, some X, some O, none, none, none, some X, some O, none] X O = (some 8, 0) := by
  rw [minimaxL_succ 4 [none, some X, some O, none, none, none, some X, some O, none] X O [0, 3, 4, 5, 8] rfl rfl (List.cons_ne_nil _ _)]
  show pickBest [(0, (minimaxL 4 [some X, some X, some O, none, none, none, some X, some O, none] O X).2), (3, (minimaxL 4 [none, some X, some O, some X, none, none, some X, some O, none] O X).2), (4, (minimaxL 4 [none, some X, some O, none, some X, none, some X, some O, none] O X).2), (5, (minimaxL 4 [none, some X, some O, none, none, some X, some X, some O, none] O X).2), (8, (minimaxL 4 [none, some X, some O, none, none, none, some X, some O, some X] O X).2)] X = (some 8, 0)
  rw [mmv_0579, mmv_1783, mmv_1814, mmv_1870, mmv_1911]
  rfl

theorem mmv_1913 : minimaxL 4 [none, some X, some O, none, some X, none, some X, none, some O] O X = (some 5, -1) := rfl

theorem mmv_1914 : minimaxL 4 [none, some X, some O, none, none, none, some X, some X, some O] O X = (some 5, -1) := rfl

theorem mmv_1912 : minimaxL 5 [none, some X, some O, none, none, none, some X, none, some O] X O = (some 5, 0) := by
  rw [minimaxL_succ 4 [none, some X, some O, none, none, none, some X, none, some O] X O [0, 3, 4, 5, 7] rfl rfl (List.cons_ne_nil _ _)]
  show pickBest [(0, (minimaxL 4 [some X, some X, some O, none, none, none, some X, none, some O] O X).2), (3, (minimaxL 4 [none, some X, some O, some X, none, none, some X, none, some O] O X).2), (4, (minimaxL 4 [none, some X, some O, none, some X, none, some X, none, some O] O X).2), (5, (minimaxL 4 [none, some X, some O, none, none, some X, some X, none, some O] O X).2), (7, (minimaxL 4 [none, some X, some O, none, none, none, some X, some X, some O] O X).2)] X = (some 5, 0)
  rw [mmv_0600, mmv_1799, mmv_1913, mmv_1879, mmv_1914]
  rfl

theorem mmv_1883 : minimaxL 6 [none, some X, some O, none, none, none, some X, none, none] O X = (some 4, 0) := by
  rw [minimaxL_succ 5 [none, some X, some O, none, none, none, some X, none, none] O X [0, 3, 4, 5, 7, 8] rfl rfl (List.cons_ne_nil _ _)]
  show pickBest [(0, (minimaxL 5 [some O, some X, some O, none, none, none, some X, none, none] X O).2), (3, (minimaxL 5 [none, some X, some O, some O, none, none, some X, none, none] X O).2), (4, (minimaxL 5 [none, some X, some O, none, some O, none, some X, none, none] X O).2), (5, (minimaxL 5 [none, some X, some O, none, none, some O, some X, none, none] X O).2), (7, (minimaxL 5 [none, some X, some O, none, none, none, some X, some O, none] X O).2), (8, (minimaxL 5 [none, some X, some O, none, none, none, some X, none, some O] X O).2)] O = (some 4, 0)
  rw [mmv_1648, mmv_1884, mmv_1896, mmv_1904, mmv_1910, mmv_1912]
  rfl

theorem mmv_1916 : minimaxL 5 [none, some X, some O, some O, none, none, none, some X, none] X O = (some 4, 1) := rfl

theorem mmv_1918 : minimaxL 4 [none, some X, some O, none, some O, none, none, some X, some X] O X = (some 6, -1) := rfl

theorem mmv_1917 : minimaxL 5 [none, some X, some O, none, some O, none, none, some X, none] X O = (some 8, -1) := by
  rw [minimaxL_succ 4 [none, some X, some O, none, some O, none, none, some X, none] X O [0, 3, 5, 6, 8] rfl rfl (List.cons_ne_nil _ _)]
  show pickBest [(0, (minimaxL 4 [some X, some X, some O, none, some O, none, none, some X, none] O X).2), (3, (minimaxL 4 [none, some X, some O, some X, some O, none, none, some X, none] O X).2), (5, (minimaxL 4 [none, some X, some O, none, some O, some X, none, some X, none] O X).2), (6, (minimaxL 4 [none, some X, some O, none, some O, none, some X, some X, none] O X).2), (8, (minimaxL 4 [none, some X, some O, none, some O, none, none, some X, some X] O X).2)] X = (some 8, -1)
  rw [mmv_0529, mmv_1741, mmv_1862, mmv_1897, mmv_1918]
  rfl

theorem mmv_1919 : minimaxL 5 [none, some X, some O, none, none, some O, none, some X, none] X O = (some 4, 1) := rfl

theorem mmv_1920 : minimaxL 5 [none, some X, some O, none, none, none, some O, some X, none] X O = (some 4, 1) := rfl

theorem mmv_1921 : minimaxL 5 [none, some X, some O, none, none, none, none, some X, some O] X O = (some 4, 1) := rfl

theorem mmv_1915 : minimaxL 6 [none, some X, some O, none, none, none, none, some X, none] O X = (some 4, -1) := by
  rw [minimaxL_succ 5 [none, some X, some O, none, none, none, none, some X, none] O X [0, 3, 4, 5, 6, 8] rfl rfl (List.cons_ne_nil _ _)]
  show pickBest [(0, (minimaxL 5 [some O, some X, some O, none, none, none, none, some X, none] X O).2), (3, (minimaxL 5 [none, some X, some O, some O, none, none, none, some X, none] X O).2), (4, (minimaxL 5 [none, some X, some O, none, some O, none, none, some X, none] X O).2), (5, (minimaxL 5 [none, some X, some O, none, none, some O, none, some X, none] X O).2), (6, (minimaxL 5 [none, some X, some O, none, none, none, some O, some X, none] X O).2), (8, (minimaxL 5 [none, some X, some O, none, none, none, none, some X, some O] X O).2)] O = (some 4, -1)
  rw [mmv_1695, mmv_1916, mmv_1917, mmv_1919, mmv_1920, mmv_1921]
  rfl

theorem mmv_1925 : minimaxL 3 [none, some X, some O, some O, some X, some O, none, none, some X] X O = (some 7, 1) := rfl

theorem mmv_1926 : minimaxL 3 [none, some X, some O, some O, some X, none, some O, none, some X] X O = (some 7, 1) := rfl

theorem mmv_1924 : minimaxL 4 [none, some X, some O, some O, some X, none, none, none, some X] O X = (some 0, 1) := by
  rw [minimaxL_succ 3 [none, some X, some O, some O, some X, none, none, none, some X] O X [0, 5, 6, 7] rfl rfl (List.cons_ne_nil _ _)]
  show pickBest [(0, (minimaxL 3 [some O, some X, some O, some O, some X, none, none, none, some X] X O).2), (5, (minimaxL 3 [none, some X, some O, some O, some X, some O, none, none, some X] X O).2), (6, (minimaxL 3 [none, some X, some O, some O, some X, none, some O, none, some X] X O).2), (7, (minimaxL 3 [none, some X, some O, some O, some X, none, none, some O, some X] X O).2)] O = (some 0, 1)
  rw [mmv_1711, mmv_1925, mmv_1926, mmv_1825]
  rfl

theorem mmv_1928 : minimaxL 3 [none, some X, some O, some O, some O, none, none, some X, some X] X O = (some 6, 1) := rfl

theorem mmv_1929 : minimaxL 3 [none, some X, some O, some O, none, some O, none, some X, some X] X O = (some 4, 1) := rfl

theorem mmv_1930 : minimaxL 3 [none, some X, some O, some O, none, none, some O, some X, some X] X O = (some 4, 1) := rfl

theorem mmv_1927 : minimaxL 4 [none, some X, some O, some O, none, none, none, some X, some X] O X = (some 0, 1) := by
  rw [minimaxL_succ 3 [none, some X, some O, some O, none, none, none, some X, some X] O X [0, 4, 5, 6] rfl rfl (List.cons_ne_nil _ _)]
  show pickBest [(0, (minimaxL 3 [some O, some X, some O, some O, none, none, none, some X, some X] X O).2), (4, (minimaxL 3 [none, some X, some O, some O, some O, none, none, some X, some X] X O).2), (5, (minimaxL 3 [none, some X, some O, some O, none, some O, none, some X, some X] X O).2), (6, (minimaxL 3 [none, some X, some O, some O, none, none, some O, some X, some X] X O).2)] O = (some 0, 1)
  rw [mmv_1715, mmv_1928, mmv_1929, mmv_1930]
  rfl

theorem mmv_1923 : minimaxL 5 [none, some X, some O, some O, none, none, none, none, some X] X O = (some 7, 1) := by
  rw [minimaxL_succ 4 [none, some X, some O, some O, none, none, none, none, some X] X O [0, 4, 5, 6, 7] rfl rfl (List.cons_ne_nil _ _)]
  show pickBest [(0, (minimaxL 4 [some X, some X, some O, some O, none, none, none, none, some X] O X).2), (4, (minimaxL 4 [none, some X, some O, some O, some X, none, none, none, some X] O X).2), (5, (minimaxL 4 [none, some X, some O, some O, none, some X, none, none, some X] O X).2), (6, (minimaxL 4 [none, some X, some O, some O, none, none, some X, none, some X] O X).2), (7, (minimaxL 4 [none, some X, some O, some O, none, none, none, some X, some X] O X).2)] X = (some 7, 1)
  rw [mmv_0517, mmv_1924, mmv_1850, mmv_1892, mmv_1927]
  rfl

theorem mmv_1931 : minimaxL 5 [none, some X, some O, none, some O, none, none, none, some X] X O = (some 6, 0) := by
  rw [minimaxL_succ 4 [none, some X, some O, none, some O, none, none, none, some X] X O [0, 3, 5, 6, 7] rfl rfl (List.cons_ne_nil _ _)]
  show pickBest [(0, (minimaxL 4 [some X, some X, some O, none, some O, none, none, none, some X] O X).2), (3, (minimaxL 4 [none, some X, some O, some X, some O, none, none, none, some X] O X).2), (5, (minimaxL 4 [none, some X, some O, none, some O, some X, none, none, some X] O X).2), (6, (minimaxL 4 [none, some X, some O, none, some O, none, some X, none, some X] O X).2), (7, (minimaxL 4 [none, some X, some O, none, some O, none, none, some X, some X] O X).2)] X = (some 6, 0)
  rw [mmv_0530, mmv_1742, mmv_1863, mmv_1901, mmv_1918]
  rfl

theorem mmv_1934 : minimaxL 3 [none, some X, some O, none, some X, some O, some O, none, some X] X O = (some 7, 1) := rfl

theorem mmv_1933 : minimaxL 4 [none, some X, some O, none, some X, some O, none, none, some X] O X = (some 0, 1) := by
  rw [minimaxL_succ 3 [none, some X, some O, none, some X, some O, none, none, some X] O X [0, 3, 6, 7] rfl rfl (List.cons_ne_nil _ _)]
  show pickBest [(0, (minimaxL 3 [some O, some X, some O, none, some X, some O, none, none, some X] X O).2), (3, (minimaxL 3 [none, some X, some O, some O, some X, some O, none, none, some X] X O).2), (6, (minimaxL 3 [none, some X, some O, none, some X, some O, some O, none, some X] X O).2), (7, (minimaxL 3 [none, some X, some O, none, some X, some O, none, some O, some X] X O).2)] O = (some 0, 1)
  rw [mmv_1712, mmv_1925, mmv_1934, mmv_1826]
  rfl

theorem mmv_1936 : minimaxL 3 [none, some X, some O, none, some O, some O, none, some X, some X] X O = (some 6, 1) := rfl

theorem mmv_1937 : minimaxL 3 [none, some X, some O, none, none, some O, some O, some X, some X] X O = (some 4, 1) := rfl

theorem mmv_1935 : minimaxL 4 [none, some X, some O, none, none, some O, none, some X, some X] O X = (some 0, 1) := by
  rw [minimaxL_succ 3 [none, some X, some O, none, none, some O, none, some X, some X] O X [0, 3, 4, 6] rfl rfl (List.cons_ne_nil _ _)]
  show pickBest [(0, (minimaxL 3 [some O, some X, some O, none, none, some O, none, some X, some X] X O).2), (3, (minimaxL 3 [none, some X, some O, some O, none, some O, none, some X, some X] X O).2), (4, (minimaxL 3 [none, some X, some O, none, some O, some O, none, some X, some X] X O).2), (6, (minimaxL 3 [none, some X, some O, none, none, some O, some O, some X, some X] X O).2)] O = (some 0, 1)
  rw [mmv_1716, mmv_1929, mmv_1936, mmv_1937]
  rfl

theorem mmv_1932 : minimaxL 5 [none, some X, some O, none, none, some O, none, none, some X] X O = (some 7, 1) := by
  rw [minimaxL_succ 4 [none, some X, some O, none, none, some O, none, none, some X] X O [0, 3, 4, 6, 7] rfl rfl (List.cons_ne_nil _ _)]
  show pickBest [(0, (minimaxL 4 [some X, some X, some O, none, none, some O, none, none, some X] O X).2), (3, (minimaxL 4 [none, some X, some O, some X, none, some O, none, none, some X] O X).2), (4, (minimaxL 4 [none, some X, some O, none, some X, some O, none, none, some X] O X).2), (6, (minimaxL 4 [none, some X, some O, none, none, some O, some X, none, some X] O X).2), (7, (minimaxL 4 [none, some X, some O, none, none, some O, none, some X, some X] O X).2)] X = (some 7, 1)
  rw [mmv_0536, mmv_1747, mmv_1933, mmv_1907, mmv_1935]
  rfl

theorem mmv_1939 : minimaxL 4 [none, some X, some O, none, some X, none, some O, none, some X] O X = (some 0, 1) := by
  rw [minimaxL_succ 3 [none, some X, some O, none, some X, none, some O, none, some X] O X [0, 3, 5, 7] rfl rfl (List.cons_ne_nil _ _)]
  show pickBest [(0, (minimaxL 3 [some O, some X, some O, none, some X, none, some O, none, some X] X O).2), (3, (minimaxL 3 [none, some X, some O, some O, some X, none, some O, none, some X] X O).2), (5, (minimaxL 3 [none, some X, some O, none, some X, some O, some O, none, some X] X O).2), (7, (minimaxL 3 [none, some X, some O, none, some X, none, some O, some O, some X] X O).2)] O = (some 0, 1)
  rw [mmv_1713, mmv_1926, mmv_1934, mmv_1827]
  rfl

theorem mmv_1940 : minimaxL 4 [none, some X, some O, none, none, none, some O, some X, some X] O X = (some 4, -1) := rfl

theorem mmv_1938 : minimaxL 5 [none, some X, some O, none, none, none, some O, none, some X] X O = (some 4, 1) := by
  rw [minimaxL_succ 4 [none, some X, some O, none, none, none, some O, none, some X] X O [0, 3, 4, 5, 7] rfl rfl (List.cons_ne_nil _ _)]
  show pickBest [(0, (minimaxL 4 [some X, some X, some O, none, none, none, some O, none, some X] O X).2), (3, (minimaxL 4 [none, some X, some O, some X, none, none, some O, none, some X] O X).2), (4, (minimaxL 4 [none, some X, some O, none, some X, none, some O, none, some X] O X).2), (5, (minimaxL 4 [none, some X, some O, none, none, some X, some O, none, some X] O X).2), (7, (minimaxL 4 [none, some X, some O, none, none, none, some O, some X, some X] O X).2)] X = (some 4, 1)
  rw [mmv_0551, mmv_1769, mmv_1939, mmv_1868, mmv_1940]
  rfl

theorem mmv_1941 : minimaxL 5 [none, some X, some O, none, none, none, none, some O, some X] X O = (some 6, 0) := by
  rw [minimaxL_succ 4 [none, some X, some O, none, none, none, none, some O, some X] X O [0, 3, 4, 5, 6] rfl rfl (List.cons_ne_nil _ _)]
  show pickBest [(0, (minimaxL 4 [some X, some X, some O, none, none, none, none, some O, some X] O X).2), (3, (minimaxL 4 [none, some X, some O, some X, none, none, none, some O, some X] O X).2), (4, (minimaxL 4 [none, some X, some O, none, some X, none, none, some O, some X] O X).2), (5, (minimaxL 4 [none, some X, some O, none, none, some X, none, some O, some X] O X).2), (6, (minimaxL 4 [none, some X, some O, none, none, none, some X, some O, some X] O X).2)] X = (some 6, 0)
  rw [mmv_0582, mmv_1786, mmv_1824, mmv_1873, mmv_1911]
  rfl

theorem mmv_1922 : minimaxL 6 [none, some X, some O, none, none, none, none, none, some X] O X = (some 4, 0) := by
  rw [minimaxL_succ 5 [none, some X, some O, none, none, none, none, none, some X] O X [0, 3, 4, 5, 6, 7] rfl rfl (List.cons_ne_nil _ _)]
  show pickBest [(0, (minimaxL 5 [some O, some X, some O, none, none, none, none, none, some X] X O).2), (3, (minimaxL 5 [none, some X, some O, some O, none, none, none, none, some X] X O).2), (4, (minimaxL 5 [none, some X, some O, none, some O, none, none, none, some X] X O).2), (5, (minimaxL 5 [none, some X, some O, none, none, some O, none, none, some X] X O).2), (6, (minimaxL 5 [none, some X, some O, none, none, none, some O, none, some X] X O).2), (7, (minimaxL 5 [none, some X, some O, none, none, none, none, some O, some X] X O).2)] O = (some 4, 0)
  rw [mmv_1709, mmv_1923, mmv_1931, mmv_1932, mmv_1938, mmv_1941]
  rfl

theorem mmv_1733 : minimaxL 7 [none, some X, some O, none, none, none, none, none, none] X O = (some 8, 0) := by
  rw [minimaxL_succ 6 [none, some X, some O, none, none, none, none, none, none] X O [0, 3, 4, 5, 6, 7, 8] rfl rfl (List.cons_ne_nil _ _)]
  show pickBest [(0, (minimaxL 6 [some X, some X, some O, none, none, none, none, none, none] O X).2), (3, (minimaxL 6 [none, some X, some O, some X, none, none, none, none, none] O X).2), (4, (minimaxL 6 [none, some X, some O, none, some X, none, none, none, none] O X).2), (5, (minimaxL 6 [none, some X, some O, none, none, some X, none, none, none] O X).2), (6, (minimaxL 6 [none, some X, some O, none, none, none, some X, none, none] O X).2), (7, (minimaxL 6 [none, some X, some O, none, none, none, none, some X, none] O X).2), (8, (minimaxL 6 [none, some X, some O, none, none, none, none, none, some X] O X).2)] X = (some 8, 0)
  rw [mmv_0456, mmv_1734, mmv_1801, mmv_1829, mmv_1883, mmv_1915, mmv_1922]
  rfl

theorem mmv_1944 : minimaxL 5 [none, some X, some X, some O, some O, none, none, none, none] X O = (some 0, 1) := rfl

theorem mmv_1945 : minimaxL 5 [none, some X, some X, some O, none, some O, none, none, none] X O = (some 0, 1) := rfl

theorem mmv_1946 : minimaxL 5 [none, some X, some X, some O, none, none, some O, none, none] X O = (some 0, 1) := rfl

theorem mmv_1947 : minimaxL 5 [none, some X, some X, some O, none, none, none, some O, none] X O = (some 0, 1) := rfl

theorem mmv_1948 : minimaxL 5 [none, some X, some X, some O, none, none, none, none, some O] X O = (some 0, 1) := rfl

theorem mmv_1943 : minimaxL 6 [none, some X, some X, some O, none, none, none, none, none] O X = (some 0, -1) := by
  rw [minimaxL_succ 5 [none, some X, some X, some O, none, none, none, none, none] O X [0, 4, 5, 6, 7, 8] rfl rfl (List.cons_ne_nil _ _)]
  show pickBest [(0, (minimaxL 5 [some O, some X, some X, some O, none, none, none, none, none] X O).2), (4, (minimaxL 5 [none, some X, some X, some O, some O, none, none, none, none] X O).2), (5, (minimaxL 5 [none, some X, some X, some O, none, some O, none, none, none] X O).2), (6, (minimaxL 5 [none, some X, some X, some O, none, none, some O, none, none] X O).2), (7, (minimaxL 5 [none, some X, some X, some O, none, none, none, some O, none] X O).2), (8, (minimaxL 5 [none, some X, some X, some O, none, none, none, none, some O] X O).2)] O = (some 0, -1)
  rw [mmv_1235, mmv_1944, mmv_1945, mmv_1946, mmv_1947, mmv_1948]
  rfl

theorem mmv_1950 : minimaxL 5 [none, some X, none, some O, some X, some O, none, none, none] X O = (some 7, 1) := rfl

theorem mmv_1951 : minimaxL 5 [none, some X, none, some O, some X, none, some O, none, none] X O = (some 7, 1) := rfl

theorem mmv_1954 : minimaxL 3 [some X, some X, none, some O, some X, some O, none, some O, none] X O = (some 2, 1) := rfl

theorem mmv_1955 : minimaxL 3 [some X, some X, none, some O, some X, none, some O, some O, none] X O = (some 2, 1) := rfl

theorem mmv_1953 : minimaxL 4 [some X, some X, none, some O, some X, none, none, some O, none] O X = (some 2, 1) := by
  rw [minimaxL_succ 3 [some X, some X, none, some O, some X, none, none, some O, none] O X [2, 5, 6, 8] rfl rfl (List.cons_ne_nil _ _)]
  show pickBest [(2, (minimaxL 3 [some X, some X, some O, some O, some X, none, none, some O, none] X O).2), (5, (minimaxL 3 [some X, some X, none, some O, some X, some O, none, some O, none] X O).2), (6, (minimaxL 3 [some X, some X, none, some O, some X, none, some O, some O, none] X O).2), (8, (minimaxL 3 [some X, some X, none, some O, some X, none, none, some O, some O] X O).2)] O = (some 2, 1)
  rw [mmv_0461, mmv_1954, mmv_1955, mmv_0778]
  rfl

theorem mmv_1957 : minimaxL 3 [none, some X, some X, some O, some X, some O, none, some O, none] X O = (some 0, 1) := rfl

theorem mmv_1958 : minimaxL 3 [none, some X, some X, some O, some X, none, some O, some O, none] X O = (some 0, 1) := rfl

theorem mmv_1959 : minimaxL 3 [none, some X, some X, some O, some X, none, none, some O, some O] X O = (some 0, 1) := rfl

theorem mmv_1956 : minimaxL 4 [none, some X, some X, some O, some X, none, none, some O, none] O X = (some 0, 1) := by
  rw [minimaxL_succ 3 [none, some X, some X, some O, some X, none, none, some O, none] O X [0, 5, 6, 8] rfl rfl (List.cons_ne_nil _ _)]
  show pickBest [(0, (minimaxL 3 [some O, some X, some X, some O, some X, none, none, some O, none] X O).2), (5, (minimaxL 3 [none, some X, some X, some O, some X, some O, none, some O, none] X O).2), (6, (minimaxL 3 [none, some X, some X, some O, some X, none, some O, some O, none] X O).2), (8, (minimaxL 3 [none, some X, some X, some O, some X, none, none, some O, some O] X O).2)] O = (some 0, 1)
  rw [mmv_1351, mmv_1957, mmv_1958, mmv_1959]
  rfl

theorem mmv_1962 : minimaxL 2 [some X, some X, none, some O, some X, some X, some O, some O, none] O X = (some 8, -1) := rfl

theorem mmv_1963 : minimaxL 2 [none, some X, some X, some O, some X, some X, some O, some O, none] O X = (some 0, -1) := rfl

theorem mmv_1964 : minimaxL 2 [none, some X, none, some O, some X, some X, some O, some O, some X] O X = (some 0, -1) := rfl

theorem mmv_1961 : minimaxL 3 [none, some X, none, some O, some X, some X, some O, some O, none] X O = (some 8, -1) := by
  rw [minimaxL_succ 2 [none, some X, none, some O, some X, some X, some O, some O, none] X O [0, 2, 8] rfl rfl (List.cons_ne_nil _ _)]
  show pickBest [(0, (minimaxL 2 [some X, some X, none, some O, some X, some X, some O, some O, none] O X).2), (2, (minimaxL 2 [none, some X, some X, some O, some X, some X, some O, some O, none] O X).2), (8, (minimaxL 2 [none, some X, none, some O, some X, some X, some O, some O, some X] O X).2)] X = (some 8, -1)
  rw [mmv_1962, mmv_1963, mmv_1964]
  rfl

theorem mmv_1966 : minimaxL 2 [none, some X, some X, some O, some X, some X, none, some O, some O] O X = (some 6, -1) := rfl

theorem mmv_1967 : minimaxL 2 [none, some X, none, some O, some X, some X, some X, some O, some O] O X = (some 2, 0) := by
  rw [minimaxL_succ 1 [none, some X, none, some O, some X, some X, some X, some O, some O] O X [0, 2] rfl rfl (List.cons_ne_nil _ _)]
  show pickBest [(0, (minimaxL 1 [some O, some X, none, some O, some X, some X, some X, some O, some O] X O).2), (2, (minimaxL 1 [none, some X, some O, some O, some X, some X, some X, some O, some O] X O).2)] O = (some 2, 0)
  rw [mmv_1535, mmv_1809]
  rfl

theorem mmv_1965 : minimaxL 3 [none, some X, none, some O, some X, some X, none, some O, some O] X O = (some 6, 0) := by
  rw [minimaxL_succ 2 [none, some X, none, some O, some X, some X, none, some O, some O] X O [0, 2, 6] rfl rfl (List.cons_ne_nil _ _)]
  show pickBest [(0, (minimaxL 2 [some X, some X, none, some O, some X, some X, none, some O, some O] O X).2), (2, (minimaxL 2 [none, some X, some X, some O, some X, some X, none, some O, some O] O X).2), (6, (minimaxL 2 [none, some X, none, some O, some X, some X, some X, some O, some O] O X).2)] X = (some 6, 0)
  rw [mmv_0789, mmv_1966, mmv_1967]
  rfl

theorem mmv_1960 : minimaxL 4 [none, some X, none, some O, some X, some X, none, some O, none] O X = (some 6, -1) := by
  rw [minimaxL_succ 3 [none, some X, none, some O, some X, some X, none, some O, none] O X [0, 2, 6, 8] rfl rfl (List.cons_ne_nil _ _)]
  show pickBest [(0, (minimaxL 3 [some O, some X, none, some O, some X, some X, none, some O, none] X O).2), (2, (minimaxL 3 [none, some X, some O, some O, some X, some X, none, some O, none] X O).2), (6, (minimaxL 3 [none, some X, none, some O, some X, some X, some O, some O, none] X O).2), (8, (minimaxL 3 [none, some X, none, some O, some X, some X, none, some O, some O] X O).2)] O = (some 6, -1)
  rw [mmv_1530, mmv_1807, mmv_1961, mmv_1965]
  rfl

theorem mmv_1969 : minimaxL 3 [none, some X, none, some O, some X, some O, some X, some O, none] X O = (some 2, 1) := rfl

theorem mmv_1970 : minimaxL 3 [none, some X, none, some O, some X, none, some X, some O, some O] X O = (some 2, 1) := rfl

theorem mmv_1968 : minimaxL 4 [none, some X, none, some O, some X, none, some X, some O, none] O X = (some 2, 0) := by
  rw [minimaxL_succ 3 [none, some X, none, some O, some X, none, some X, some O, none] O X [0, 2, 5, 8] rfl rfl (List.cons_ne_nil _ _)]
  show pickBest [(0, (minimaxL 3 [some O, some X, none, some O, some X, none, some X, some O, none] X O).2), (2, (minimaxL 3 [none, some X, some O, some O, some X, none, some X, some O, none] X O).2), (5, (minimaxL 3 [none, some X, none, some O, some X, some O, some X, some O, none] X O).2), (8, (minimaxL 3 [none, some X, none, some O, some X, none, some X, some O, some O] X O).2)] O = (some 2, 0)
  rw [mmv_1546, mmv_1815, mmv_1969, mmv_1970]
  rfl

theorem mmv_1972 : minimaxL 3 [none, some X, none, some O, some X, some O, none, some O, some X] X O = (some 0, 1) := rfl

theorem mmv_1973 : minimaxL 3 [none, some X, none, some O, some X, none, some O, some O, some X] X O = (some 0, 1) := rfl

theorem mmv_1971 : minimaxL 4 [none, some X, none, some O, some X, none, none, some O, some X] O X = (some 0, 0) := by
  rw [minimaxL_succ 3 [none, some X, none, some O, some X, none, none, some O, some X] O X [0, 2, 5, 6] rfl rfl (List.cons_ne_nil _ _)]
  show pickBest [(0, (minimaxL 3 [some O, some X, none, some O, some X, none, none, some O, some X] X O).2), (2, (minimaxL 3 [none, some X, some O, some O, some X, none, none, some O, some X] X O).2), (5, (minimaxL 3 [none, some X, none, some O, some X, some O, none, some O, some X] X O).2), (6, (minimaxL 3 [none, some X, none, some O, some X, none, some O, some O, some X] X O).2)] O = (some 0, 0)
  rw [mmv_1554, mmv_1825, mmv_1972, mmv_1973]
  rfl

theorem mmv_1952 : minimaxL 5 [none, some X, none, some O, some X, none, none, some O, none] X O = (some 2, 1) := by
  rw [minimaxL_succ 4 [none, some X, none, some O, some X, none, none, some O, none] X O [0, 2, 5, 6, 8] rfl rfl (List.cons_ne_nil _ _)]
  show pickBest [(0, (minimaxL 4 [some X, some X, none, some O, some X, none, none, some O, none] O X).2), (2, (minimaxL 4 [none, some X, some X, some O, some X, none, none, some O, none] O X).2), (5, (minimaxL 4 [none, some X, none, some O, some X, some X, none, some O, none] O X).2), (6, (minimaxL 4 [none, some X, none, some O, some X, none, some X, some O, none] O X).2), (8, (minimaxL 4 [none, some X, none, some O, some X, none, none, some O, some X] O X).2)] X = (some 2, 1)
  rw [mmv_1953, mmv_1956, mmv_1960, mmv_1968, mmv_1971]
  rfl

theorem mmv_1974 : minimaxL 5 [none, some X, none, some O, some X, none, none, none, some O] X O = (some 7, 1) := rfl

theorem mmv_1949 : minimaxL 6 [none, some X, none, some O, some X, none, none, none, none] O X = (some 0, 1) := by
  rw [minimaxL_succ 5 [none, some X, none, some O, some X, none, none, none, none] O X [0, 2, 5, 6, 7, 8] rfl rfl (List.cons_ne_nil _ _)]
  show pickBest [(0, (minimaxL 5 [some O, some X, none, some O, some X, none, none, none, none] X O).2), (2, (minimaxL 5 [none, some X, some O, some O, some X, none, none, none, none] X O).2), (5, (minimaxL 5 [none, some X, none, some O, some X, some O, none, none, none] X O).2), (6, (minimaxL 5 [none, some X, none, some O, some X, none, some O, none, none] X O).2), (7, (minimaxL 5 [none, some X, none, some O, some X, none, none, some O, none] X O).2), (8, (minimaxL 5 [none, some X, none, some O, some X, none, none, none, some O] X O).2)] O = (some 0, 1)
  rw [mmv_1524, mmv_1802, mmv_1950, mmv_1951, mmv_1952, mmv_1974]
  rfl

theorem mmv_1978 : minimaxL 3 [some O, some X, some X, some O, some O, some X, none, none, none] X O = (some 8, 1) := rfl

theorem mmv_1979 : minimaxL 3 [none, some X, some X, some O, some O, some X, some O, none, none] X O = (some 0, 1) := rfl

theorem mmv_1980 : minimaxL 3 [none, some X, some X, some O, some O, some X, none, some O, none] X O = (some 0, 1) := rfl

theorem mmv_1981 : minimaxL 3 [none, some X, some X, some O, some O, some X, none, none, some O] X O = (some 0, 1) := rfl

theorem mmv_1977 : minimaxL 4 [none, some X, some X, some O, some O, some X, none, none, none] O X = (some 0, 1) := by
  rw [minimaxL_succ 3 [none, some X, some X, some O, some O, some X, none, none, none] O X [0, 6, 7, 8] rfl rfl (List.cons_ne_nil _ _)]
  show pickBest [(0, (minimaxL 3 [some O, some X, some X, some O, some O, some X, none, none, none] X O).2), (6, (minimaxL 3 [none, some X, some X, some O, some O, some X, some O, none, none] X O).2), (7, (minimaxL 3 [none, some X, some X, some O, some O, some X, none, some O, none] X O).2), (8, (minimaxL 3 [none, some X, some X, some O, some O, some X, none, none, some O] X O).2)] O = (some 0, 1)
  rw [mmv_1978, mmv_1979, mmv_1980, mmv_1981]
  rfl

theorem mmv_1985 : minimaxL 1 [none, some X, some X, some O, some O, some X, some X, some O, some O] X O = (some 0, 1) := rfl

theorem mmv_1984 : minimaxL 2 [none, some X, some X, some O, some O, some X, some X, some O, none] O X = (some 0, 1) := by
  rw [minimaxL_succ 1 [none, some X, some X, some O, some O, some X, some X, some O, none] O X [0, 8] rfl rfl (List.cons_ne_nil _ _)]
  show pickBest [(0, (minimaxL 1 [some O, some X, some X, some O, some O, some X, some X, some O, none] X O).2), (8, (minimaxL 1 [none, some X, some X, some O, some O, some X, some X, some O, some O] X O).2)] O = (some 0, 1)
  rw [mmv_1612, mmv_1985]
  rfl

theorem mmv_1986 : minimaxL 2 [none, some X, none, some O, some O, some X, some X, some O, some X] O X = (some 2, 0) := by
  rw [minimaxL_succ 1 [none, some X, none, some O, some O, some X, some X, some O, some X] O X [0, 2] rfl rfl (List.cons_ne_nil _ _)]
  show pickBest [(0, (minimaxL 1 [some O, some X, none, some O, some O, some X, some X, some O, some X] X O).2), (2, (minimaxL 1 [none, some X, some O, some O, some O, some X, some X, some O, some X] X O).2)] O = (some 2, 0)
  rw [mmv_1609, mmv_1839]
  rfl

theorem mmv_1983 : minimaxL 3 [none, some X, none, some O, some O, some X, some X, some O, none] X O = (some 2, 1) := by
  rw [minimaxL_succ 2 [none, some X, none, some O, some O, some X, some X, some O, none] X O [0, 2, 8] rfl rfl (List.cons_ne_nil _ _)]
  show pickBest [(0, (minimaxL 2 [some X, some X, none, some O, some O, some X, some X, some O, none] O X).2), (2, (minimaxL 2 [none, some X, some X, some O, some O, some X, some X, some O, none] O X).2), (8, (minimaxL 2 [none, some X, none, some O, some O, some X, some X, some O, some X] O X).2)] X = (some 2, 1)
  rw [mmv_0810, mmv_1984, mmv_1986]
  rfl

theorem mmv_1988 : minimaxL 2 [none, some X, some X, some O, some O, some X, some X, none, some O] O X = (some 0, -1) := rfl

theorem mmv_1989 : minimaxL 2 [none, some X, none, some O, some O, some X, some X, some X, some O] O X = (some 0, -1) := rfl

theorem mmv_1987 : minimaxL 3 [none, some X, none, some O, some O, some X, some X, none, some O] X O = (some 0, 0) := by
  rw [minimaxL_succ 2 [none, some X, none, some O, some O, some X, some X, none, some O] X O [0, 2, 7] rfl rfl (List.cons_ne_nil _ _)]
  show pickBest [(0, (minimaxL 2 [some X, some X, none, some O, some O, some X, some X, none, some O] O X).2), (2, (minimaxL 2 [none, some X, some X, some O, some O, some X, some X, none, some O] O X).2), (7, (minimaxL 2 [none, some X, none, some O, some O, some X, some X, some X, some O] O X).2)] X = (some 0, 0)
  rw [mmv_0815, mmv_1988, mmv_1989]
  rfl

theorem mmv_1982 : minimaxL 4 [none, some X, none, some O, some O, some X, some X, none, none] O X = (some 2, 0) := by
  rw [minimaxL_succ 3 [none, some X, none, some O, some O, some X, some X, none, none] O X [0, 2, 7, 8] rfl rfl (List.cons_ne_nil _ _)]
  show pickBest [(0, (minimaxL 3 [some O, some X, none, some O, some O, some X, some X, none, none] X O).2), (2, (minimaxL 3 [none, some X, some O, some O, some O, some X, some X, none, none] X O).2), (7, (minimaxL 3 [none, some X, none, some O, some O, some X, some X, some O, none] X O).2), (8, (minimaxL 3 [none, some X, none, some O, some O, some X, some X, none, some O] X O).2)] O = (some 2, 0)
  rw [mmv_1606, mmv_1835, mmv_1983, mmv_1987]
  rfl

theorem mmv_1992 : minimaxL 2 [some O, some X, some X, some O, some O, some X, none, some X, none] O X = (some 6, -1) := rfl

theorem mmv_1993 : minimaxL 2 [some O, some X, none, some O, some O, some X, none, some X, some X] O X = (some 6, -1) := rfl

theorem mmv_1991 : minimaxL 3 [some O, some X, none, some O, some O, some X, none, some X, none] X O = (some 8, -1) := by
  rw [minimaxL_succ 2 [some O, some X, none, some O, some O, some X, none, some X, none] X O [2, 6, 8] rfl rfl (List.cons_ne_nil _ _)]
  show pickBest [(2, (minimaxL 2 [some O, some X, some X, some O, some O, some X, none, some X, none] O X).2), (6, (minimaxL 2 [some O, some X, none, some O, some O, some X, some X, some X, none] O X).2), (8, (minimaxL 2 [some O, some X, none, some O, some O, some X, none, some X, some X] O X).2)] X = (some 8, -1)
  rw [mmv_1992, mmv_1607, mmv_1993]
  rfl

theorem mmv_1995 : minimaxL 2 [none, some X, some X, some O, some O, some X, some O, some X, none] O X = (some 0, -1) := rfl

theorem mmv_1996 : minimaxL 2 [none, some X, none, some O, some O, some X, some O, some X, some X] O X = (some 0, -1) := rfl

theorem mmv_1994 : minimaxL 3 [none, some X, none, some O, some O, some X, some O, some X, none] X O = (some 8, -1) := by
  rw [minimaxL_succ 2 [none, some X, none, some O, some O, some X, some O, some X, none] X O [0, 2, 8] rfl rfl (List.cons_ne_nil _ _)]
  show pickBest [(0, (minimaxL 2 [some X, some X, none, some O, some O, some X, some O, some X, none] O X).2), (2, (minimaxL 2 [none, some X, some X, some O, some O, some X, some O, some X, none] O X).2), (8, (minimaxL 2 [none, some X, none, some O, some O, some X, some O, some X, some X] O X).2)] X = (some 8, -1)
  rw [mmv_0821, mmv_1995, mmv_1996]
  rfl

theorem mmv_1998 : minimaxL 2 [none, some X, some X, some O, some O, some X, none, some X, some O] O X = (some 0, -1) := rfl

theorem mmv_1997 : minimaxL 3 [none, some X, none, some O, some O, some X, none, some X, some O] X O = (some 0, 0) := by
  rw [minimaxL_succ 2 [none, some X, none, some O, some O, some X, none, some X, some O] X O [0, 2, 6] rfl rfl (List.cons_ne_nil _ _)]
  show pickBest [(0, (minimaxL 2 [some X, some X, none, some O, some O, some X, none, some X, some O] O X).2), (2, (minimaxL 2 [none, some X, some X, some O, some O, some X, none, some X, some O] O X).2), (6, (minimaxL 2 [none, some X, none, some O, some O, some X, some X, some X, some O] O X).2)] X = (some 0, 0)
  rw [mmv_0826, mmv_1998, mmv_1989]
  rfl

theorem mmv_1990 : minimaxL 4 [none, some X, none, some O, some O, some X, none, some X, none] O X = (some 0, -1) := by
  rw [minimaxL_succ 3 [none, some X, none, some O, some O, some X, none, some X, none] O X [0, 2, 6, 8] rfl rfl (List.cons_ne_nil _ _)]
  show pickBest [(0, (minimaxL 3 [some O, some X, none, some O, some O, some X, none, some X, none] X O).2), (2, (minimaxL 3 [none, some X, some O, some O, some O, some X, none, some X, none] X O).2), (6, (minimaxL 3 [none, some X, none, some O, some O, some X, some O, some X, none] X O).2), (8, (minimaxL 3 [none, some X, none, some O, some O, some X, none, some X, some O] X O).2)] O = (some 0, -1)
  rw [mmv_1991, mmv_1846, mmv_1994, mmv_1997]
  rfl

theorem mmv_2000 : minimaxL 3 [none, some X, none, some O, some O, some X, some O, none, some X] X O = (some 2, 1) := rfl

theorem mmv_2001 : minimaxL 3 [none, some X, none, some O, some O, some X, none, some O, some X] X O = (some 2, 1) := rfl

theorem mmv_1999 : minimaxL 4 [none, some X, none, some O, some O, some X, none, none, some X] O X = (some 2, 0) := by
  rw [minimaxL_succ 3 [none, some X, none, some O, some O, some X, none, none, some X] O X [0, 2, 6, 7] rfl rfl (List.cons_ne_nil _ _)]
  show pickBest [(0, (minimaxL 3 [some O, some X, none, some O, some O, some X, none, none, some X] X O).2), (2, (minimaxL 3 [none, some X, some O, some O, some O, some X, none, none, some X] X O).2), (6, (minimaxL 3 [none, some X, none, some O, some O, some X, some O, none, some X] X O).2), (7, (minimaxL 3 [none, some X, none, some O, some O, some X, none, some O, some X] X O).2)] O = (some 2, 0)
  rw [mmv_1625, mmv_1851, mmv_2000, mmv_2001]
  rfl

theorem mmv_1976 : minimaxL 5 [none, some X, none, some O, some O, some X, none, none, none] X O = (some 2, 1) := by
  rw [minimaxL_succ 4 [none, some X, none, some O, some O, some X, none, none, none] X O [0, 2, 6, 7, 8] rfl rfl (List.cons_ne_nil _ _)]
  show pickBest [(0, (minimaxL 4 [some X, some X, none, some O, some O, some X, none, none, none] O X).2), (2, (minimaxL 4 [none, some X, some X, some O, some O, some X, none, none, none] O X).2), (6, (minimaxL 4 [none, some X, none, some O, some O, some X, some X, none, none] O X).2), (7, (minimaxL 4 [none, some X, none, some O, some O, some X, none, some X, none] O X).2), (8, (minimaxL 4 [none, some X, none, some O, some O, some X, none, none, some X] O X).2)] X = (some 2, 1)
  rw [mmv_0800, mmv_1977, mmv_1982, mmv_1990, mmv_1999]
  rfl

theorem mmv_2003 : minimaxL 4 [none, some X, some X, some O, none, some X, some O, none, none] O X = (some 0, -1) := rfl

theorem mmv_2004 : minimaxL 4 [none, some X, none, some O, some X, some X, some O, none, none] O X = (some 0, -1) := rfl

theorem mmv_2005 : minimaxL 4 [none, some X, none, some O, none, some X, some O, some X, none] O X = (some 0, -1) := rfl

theorem mmv_2006 : minimaxL 4 [none, some X, none, some O, none, some X, some O, none, some X] O X = (some 0, -1) := rfl

theorem mmv_2002 : minimaxL 5 [none, some X, none, some O, none, some X, some O, none, none] X O = (some 0, 1) := by
  rw [minimaxL_succ 4 [none, some X, none, some O, none, some X, some O, none, none] X O [0, 2, 4, 7, 8] rfl rfl (List.cons_ne_nil _ _)]
  show pickBest [(0, (minimaxL 4 [some X, some X, none, some O, none, some X, some O, none, none] O X).2), (2, (minimaxL 4 [none, some X, some X, some O, none, some X, some O, none, none] O X).2), (4, (minimaxL 4 [none, some X, none, some O, some X, some X, some O, none, none] O X).2), (7, (minimaxL 4 [none, some X, none, some O, none, some X, some O, some X, none] O X).2), (8, (minimaxL 4 [none, some X, none, some O, none, some X, some O, none, some X] O X).2)] X = (some 0, 1)
  rw [mmv_0833, mmv_2003, mmv_2004, mmv_2005, mmv_2006]
  rfl

theorem mmv_2009 : minimaxL 3 [none, some X, some X, some O, none, some X, some O, some O, none] X O = (some 0, 1) := rfl

theorem mmv_2010 : minimaxL 3 [none, some X, some X, some O, none, some X, none, some O, some O] X O = (some 0, 1) := rfl

theorem mmv_2008 : minimaxL 4 [none, some X, some X, some O, none, some X, none, some O, none] O X = (some 0, 1) := by
  rw [minimaxL_succ 3 [none, some X, some X, some O, none, some X, none, some O, none] O X [0, 4, 6, 8] rfl rfl (List.cons_ne_nil _ _)]
  show pickBest [(0, (minimaxL 3 [some O, some X, some X, some O, none, some X, none, some O, none] X O).2), (4, (minimaxL 3 [none, some X, some X, some O, some O, some X, none, some O, none] X O).2), (6, (minimaxL 3 [none, some X, some X, some O, none, some X, some O, some O, none] X O).2), (8, (minimaxL 3 [none, some X, some X, some O, none, some X, none, some O, some O] X O).2)] O = (some 0, 1)
  rw [mmv_1357, mmv_1980, mmv_2009, mmv_2010]
  rfl

theorem mmv_2013 : minimaxL 2 [none, some X, some X, some O, none, some X, some X, some O, some O] O X = (some 0, 1) := by
  rw [minimaxL_succ 1 [none, some X, some X, some O, none, some X, some X, some O, some O] O X [0, 4] rfl rfl (List.cons_ne_nil _ _)]
  show pickBest [(0, (minimaxL 1 [some O, some X, some X, some O, none, some X, some X, some O, some O] X O).2), (4, (minimaxL 1 [none, some X, some X, some O, some O, some X, some X, some O, some O] X O).2)] O = (some 0, 1)
  rw [mmv_1613, mmv_1985]
  rfl

theorem mmv_2012 : minimaxL 3 [none, some X, none, some O, none, some X, some X, some O, some O] X O = (some 2, 1) := by
  rw [minimaxL_succ 2 [none, some X, none, some O, none, some X, some X, some O, some O] X O [0, 2, 4] rfl rfl (List.cons_ne_nil _ _)]
  show pickBest [(0, (minimaxL 2 [some X, some X, none, some O, none, some X, some X, some O, some O] O X).2), (2, (minimaxL 2 [none, some X, some X, some O, none, some X, some X, some O, some O] O X).2), (4, (minimaxL 2 [none, some X, none, some O, some X, some X, some X, some O, some O] O X).2)] X = (some 2, 1)
  rw [mmv_0855, mmv_2013, mmv_1967]
  rfl

theorem mmv_2011 : minimaxL 4 [none, some X, none, some O, none, some X, some X, some O, none] O X = (some 2, 0) := by
  rw [minimaxL_succ 3 [none, some X, none, some O, none, some X, some X, some O, none] O X [0, 2, 4, 8] rfl rfl (List.cons_ne_nil _ _)]
  show pickBest [(0, (minimaxL 3 [some O, some X, none, some O, none, some X, some X, some O, none] X O).2), (2, (minimaxL 3 [none, some X, some O, some O, none, some X, some X, some O, none] X O).2), (4, (minimaxL 3 [none, some X, none, some O, some O, some X, some X, some O, none] X O).2), (8, (minimaxL 3 [none, some X, none, some O, none, some X, some X, some O, some O] X O).2)] O = (some 2, 0)
  rw [mmv_1610, mmv_1840, mmv_1983, mmv_2012]
  rfl

theorem mmv_2015 : minimaxL 3 [none, some X, none, some O, none, some X, some O, some O, some X] X O = (some 2, 1) := rfl

theorem mmv_2014 : minimaxL 4 [none, some X, none, some O, none, some X, none, some O, some X] O X = (some 2, 0) := by
  rw [minimaxL_succ 3 [none, some X, none, some O, none, some X, none, some O, some X] O X [0, 2, 4, 6] rfl rfl (List.cons_ne_nil _ _)]
  show pickBest [(0, (minimaxL 3 [some O, some X, none, some O, none, some X, none, some O, some X] X O).2), (2, (minimaxL 3 [none, some X, some O, some O, none, some X, none, some O, some X] X O).2), (4, (minimaxL 3 [none, some X, none, some O, some O, some X, none, some O, some X] X O).2), (6, (minimaxL 3 [none, some X, none, some O, none, some X, some O, some O, some X] X O).2)] O = (some 2, 0)
  rw [mmv_1639, mmv_1855, mmv_2001, mmv_2015]
  rfl

theorem mmv_2007 : minimaxL 5 [none, some X, none, some O, none, some X, none, some O, none] X O = (some 2, 1) := by
  rw [minimaxL_succ 4 [none, some X, none, some O, none, some X, none, some O, none] X O [0, 2, 4, 6, 8] rfl rfl (List.cons_ne_nil _ _)]
  show pickBest [(0, (minimaxL 4 [some X, some X, none, some O, none, some X, none, some O, none] O X).2), (2, (minimaxL 4 [none, some X, some X, some O, none, some X, none, some O, none] O X).2), (4, (minimaxL 4 [none, some X, none, some O, some X, some X, none, some O, none] O X).2), (6, (minimaxL 4 [none, some X, none, some O, none, some X, some X, some O, none] O X).2), (8, (minimaxL 4 [none, some X, none, some O, none, some X, none, some O, some X] O X).2)] X = (some 2, 1)
  rw [mmv_0848, mmv_2008, mmv_1960, mmv_2011, mmv_2014]
  rfl

theorem mmv_2019 : minimaxL 2 [some O, some X, some X, some O, some X, some X, none, none, some O] O X = (some 6, -1) := rfl

theorem mmv_2020 : minimaxL 2 [some O, some X, some X, some O, none, some X, none, some X, some O] O X = (some 6, -1) := rfl

theorem mmv_2018 : minimaxL 3 [some O, some X, some X, some O, none, some X, none, none, some O] X O = (some 7, -1) := by
  rw [minimaxL_succ 2 [some O, some X, some X, some O, none, some X, none, none, some O] X O [4, 6, 7] rfl rfl (List.cons_ne_nil _ _)]
  show pickBest [(4, (minimaxL 2 [some O, some X, some X, some O, some X, some X, none, none, some O] O X).2), (6, (minimaxL 2 [some O, some X, some X, some O, none, some X, some X, none, some O] O X).2), (7, (minimaxL 2 [some O, some X, some X, some O, none, some X, none, some X, some O] O X).2)] X = (some 7, -1)
  rw [mmv_2019, mmv_1616, mmv_2020]
  rfl

theorem mmv_2021 : minimaxL 3 [none, some X, some X, some O, none, some X, some O, none, some O] X O = (some 0, 1) := rfl

theorem mmv_2017 : minimaxL 4 [none, some X, some X, some O, none, some X, none, none, some O] O X = (some 0, -1) := by
  rw [minimaxL_succ 3 [none, some X, some X, some O, none, some X, none, none, some O] O X [0, 4, 6, 7] rfl rfl (List.cons_ne_nil _ _)]
  show pickBest [(0, (minimaxL 3 [some O, some X, some X, some O, none, some X, none, none, some O] X O).2), (4, (minimaxL 3 [none, some X, some X, some O, some O, some X, none, none, some O] X O).2), (6, (minimaxL 3 [none, some X, some X, some O, none, some X, some O, none, some O] X O).2), (7, (minimaxL 3 [none, some X, some X, some O, none, some X, none, some O, some O] X O).2)] O = (some 0, -1)
  rw [mmv_2018, mmv_1981, mmv_2021, mmv_2010]
  rfl

theorem mmv_2023 : minimaxL 3 [none, some X, none, some O, some X, some X, some O, none, some O] X O = (some 7, 1) := rfl

theorem mmv_2022 : minimaxL 4 [none, some X, none, some O, some X, some X, none, none, some O] O X = (some 7, 0) := by
  rw [minimaxL_succ 3 [none, some X, none, some O, some X, some X, none, none, some O] O X [0, 2, 6, 7] rfl rfl (List.cons_ne_nil _ _)]
  show pickBest [(0, (minimaxL 3 [some O, some X, none, some O, some X, some X, none, none, some O] X O).2), (2, (minimaxL 3 [none, some X, some O, some O, some X, some X, none, none, some O] X O).2), (6, (minimaxL 3 [none, some X, none, some O, some X, some X, some O, none, some O] X O).2), (7, (minimaxL 3 [none, some X, none, some O, some X, some X, none, some O, some O] X O).2)] O = (some 7, 0)
  rw [mmv_1643, mmv_1833, mmv_2023, mmv_1965]
  rfl

theorem mmv_2024 : minimaxL 4 [none, some X, none, some O, none, some X, some X, none, some O] O X = (some 2, 0) := by
  rw [minimaxL_succ 3 [none, some X, none, some O, none, some X, some X, none, some O] O X [0, 2, 4, 7] rfl rfl (List.cons_ne_nil _ _)]
  show pickBest [(0, (minimaxL 3 [some O, some X, none, some O, none, some X, some X, none, some O] X O).2), (2, (minimaxL 3 [none, some X, some O, some O, none, some X, some X, none, some O] X O).2), (4, (minimaxL 3 [none, some X, none, some O, some O, some X, some X, none, some O] X O).2), (7, (minimaxL 3 [none, some X, none, some O, none, some X, some X, some O, some O] X O).2)] O = (some 2, 0)
  rw [mmv_1615, mmv_1842, mmv_1987, mmv_2012]
  rfl

theorem mmv_2026 : minimaxL 3 [some O, some X, none, some O, none, some X, none, some X, some O] X O = (some 4, 1) := rfl

theorem mmv_2027 : minimaxL 3 [none, some X, none, some O, none, some X, some O, some X, some O] X O = (some 4, 1) := rfl

theorem mmv_2025 : minimaxL 4 [none, some X, none, some O, none, some X, none, some X, some O] O X = (some 4, 0) := by
  rw [minimaxL_succ 3 [none, some X, none, some O, none, some X, none, some X, some O] O X [0, 2, 4, 6] rfl rfl (List.cons_ne_nil _ _)]
  show pickBest [(0, (minimaxL 3 [some O, some X, none, some O, none, some X, none, some X, some O] X O).2), (2, (minimaxL 3 [none, some X, some O, some O, none, some X, none, some X, some O] X O).2), (4, (minimaxL 3 [none, some X, none, some O, some O, some X, none, some X, some O] X O).2), (6, (minimaxL 3 [none, some X, none, some O, none, some X, some O, some X, some O] X O).2)] O = (some 4, 0)
  rw [mmv_2026, mmv_1849, mmv_1997, mmv_2027]
  rfl

theorem mmv_2016 : minimaxL 5 [none, some X, none, some O, none, some X, none, none, some O] X O = (some 7, 0) := by
  rw [minimaxL_succ 4 [none, some X, none, some O, none, some X, none, none, some O] X O [0, 2, 4, 6, 7] rfl rfl (List.cons_ne_nil _ _)]
  show pickBest [(0, (minimaxL 4 [some X, some X, none, some O, none, some X, none, none, some O] O X).2), (2, (minimaxL 4 [none, some X, some X, some O, none, some X, none, none, some O] O X).2), (4, (minimaxL 4 [none, some X, none, some O, some X, some X, none, none, some O] O X).2), (6, (minimaxL 4 [none, some X, none, some O, none, some X, some X, none, some O] O X).2), (7, (minimaxL 4 [none, some X, none, some O, none, some X, none, some X, some O] O X).2)] X = (some 7, 0)
  rw [mmv_0859, mmv_2017, mmv_2022, mmv_2024, mmv_2025]
  rfl

theorem mmv_1975 : minimaxL 6 [none, some X, none, some O, none, some X, none, none, none] O X = (some 2, 0) := by
  rw [minimaxL_succ 5 [none, some X, none, some O, none, some X, none, none, none] O X [0, 2, 4, 6, 7, 8] rfl rfl (List.cons_ne_nil _ _)]
  show pickBest [(0, (minimaxL 5 [some O, some X, none, some O, none, some X, none, none, none] X O).2), (2, (minimaxL 5 [none, some X, some O, some O, none, some X, none, none, none] X O).2), (4, (minimaxL 5 [none, some X, none, some O, some O, some X, none, none, none] X O).2), (6, (minimaxL 5 [none, some X, none, some O, none, some X, some O, none, none] X O).2), (7, (minimaxL 5 [none, some X, none, some O, none, some X, none, some O, none] X O).2), (8, (minimaxL 5 [none, some X, none, some O, none, some X, none, none, some O] X O).2)] O = (some 2, 0)
  rw [mmv_1603, mmv_1830, mmv_1976, mmv_2002, mmv_2007, mmv_2016]
  rfl

theorem mmv_2030 : minimaxL 4 [none, some X, some X, some O, some O, none, some X, none, none] O X = (some 5, -1) := rfl

theorem mmv_2031 : minimaxL 4 [none, some X, none, some O, some O, none, some X, some X, none] O X = (some 5, -1) := rfl

theorem mmv_2032 : minimaxL 4 [none, some X, none, some O, some O, none, some X, none, some X] O X = (some 5, -1) := rfl

theorem mmv_2029 : minimaxL 5 [none, some X, none, some O, some O, none, some X, none, none] X O = (some 5, 0) := by
  rw [minimaxL_succ 4 [none, some X, none, some O, some O, none, some X, none, none] X O [0, 2, 5, 7, 8] rfl rfl (List.cons_ne_nil _ _)]
  show pickBest [(0, (minimaxL 4 [some X, some X, none, some O, some O, none, some X, none, none] O X).2), (2, (minimaxL 4 [none, some X, some X, some O, some O, none, some X, none, none] O X).2), (5, (minimaxL 4 [none, some X, none, some O, some O, some X, some X, none, none] O X).2), (7, (minimaxL 4 [none, some X, none, some O, some O, none, some X, some X, none] O X).2), (8, (minimaxL 4 [none, some X, none, some O, some O, none, some X, none, some X] O X).2)] X = (some 5, 0)
  rw [mmv_0865, mmv_2030, mmv_1982, mmv_2031, mmv_2032]
  rfl

theorem mmv_2034 : minimaxL 4 [none, some X, some X, some O, none, some O, some X, none, none] O X = (some 4, -1) := rfl

theorem mmv_2036 : minimaxL 3 [none, some X, none, some O, some X, some O, some X, none, some O] X O = (some 7, 1) := rfl

theorem mmv_2035 : minimaxL 4 [none, some X, none, some O, some X, some O, some X, none, none] O X = (some 0, 1) := by
  rw [minimaxL_succ 3 [none, some X, none, some O, some X, some O, some X, none, none] O X [0, 2, 7, 8] rfl rfl (List.cons_ne_nil _ _)]
  show pickBest [(0, (minimaxL 3 [some O, some X, none, some O, some X, some O, some X, none, none] X O).2), (2, (minimaxL 3 [none, some X, some O, some O, some X, some O, some X, none, none] X O).2), (7, (minimaxL 3 [none, some X, none, some O, some X, some O, some X, some O, none] X O).2), (8, (minimaxL 3 [none, some X, none, some O, some X, some O, some X, none, some O] X O).2)] O = (some 0, 1)
  rw [mmv_1665, mmv_1886, mmv_1969, mmv_2036]
  rfl

theorem mmv_2037 : minimaxL 4 [none, some X, none, some O, none, some O, some X, some X, none] O X = (some 4, -1) := rfl

theorem mmv_2038 : minimaxL 4 [none, some X, none, some O, none, some O, some X, none, some X] O X = (some 4, -1) := rfl

theorem mmv_2033 : minimaxL 5 [none, some X, none, some O, none, some O, some X, none, none] X O = (some 4, 1) := by
  rw [minimaxL_succ 4 [none, some X, none, some O, none, some O, some X, none, none] X O [0, 2, 4, 7, 8] rfl rfl (List.cons_ne_nil _ _)]
  show pickBest [(0, (minimaxL 4 [some X, some X, none, some O, none, some O, some X, none, none] O X).2), (2, (minimaxL 4 [none, some X, some X, some O, none, some O, some X, none, none] O X).2), (4, (minimaxL 4 [none, some X, none, some O, some X, some O, some X, none, none] O X).2), (7, (minimaxL 4 [none, some X, none, some O, none, some O, some X, some X, none] O X).2), (8, (minimaxL 4 [none, some X, none, some O, none, some O, some X, none, some X] O X).2)] X = (some 4, 1)
  rw [mmv_0870, mmv_2034, mmv_2035, mmv_2037, mmv_2038]
  rfl

theorem mmv_2041 : minimaxL 3 [none, some X, some X, some O, some O, none, some X, some O, none] X O = (some 0, 1) := rfl

theorem mmv_2042 : minimaxL 3 [none, some X, some X, some O, none, some O, some X, some O, none] X O = (some 0, 1) := rfl

theorem mmv_2043 : minimaxL 3 [none, some X, some X, some O, none, none, some X, some O, some O] X O = (some 0, 1) := rfl

theorem mmv_2040 : minimaxL 4 [none, some X, some X, some O, none, none, some X, some O, none] O X = (some 0, 1) := by
  rw [minimaxL_succ 3 [none, some X, some X, some O, none, none, some X, some O, none] O X [0, 4, 5, 8] rfl rfl (List.cons_ne_nil _ _)]
  show pickBest [(0, (minimaxL 3 [some O, some X, some X, some O, none, none, some X, some O, none] X O).2), (4, (minimaxL 3 [none, some X, some X, some O, some O, none, some X, some O, none] X O).2), (5, (minimaxL 3 [none, some X, some X, some O, none, some O, some X, some O, none] X O).2), (8, (minimaxL 3 [none, some X, some X, some O, none, none, some X, some O, some O] X O).2)] O = (some 0, 1)
  rw [mmv_1244, mmv_2041, mmv_2042, mmv_2043]
  rfl

theorem mmv_2046 : minimaxL 2 [none, some X, some X, some O, some O, none, some X, some O, some X] O X = (some 5, -1) := rfl

theorem mmv_2045 : minimaxL 3 [none, some X, none, some O, some O, none, some X, some O, some X] X O = (some 5, 0) := by
  rw [minimaxL_succ 2 [none, some X, none, some O, some O, none, some X, some O, some X] X O [0, 2, 5] rfl rfl (List.cons_ne_nil _ _)]
  show pickBest [(0, (minimaxL 2 [some X, some X, none, some O, some O, none, some X, some O, some X] O X).2), (2, (minimaxL 2 [none, some X, some X, some O, some O, none, some X, some O, some X] O X).2), (5, (minimaxL 2 [none, some X, none, some O, some O, some X, some X, some O, some X] O X).2)] X = (some 5, 0)
  rw [mmv_0888, mmv_2046, mmv_1986]
  rfl

theorem mmv_2048 : minimaxL 2 [some X, some X, none, some O, none, some O, some X, some O, some X] O X = (some 4, -1) := rfl

theorem mmv_2049 : minimaxL 2 [none, some X, some X, some O, none, some O, some X, some O, some X] O X = (some 4, -1) := rfl

theorem mmv_2050 : minimaxL 2 [none, some X, none, some O, some X, some O, some X, some O, some X] O X = (some 0, 1) := by
  rw [minimaxL_succ 1 [none, some X, none, some O, some X, some O, some X, some O, some X] O X [0, 2] rfl rfl (List.cons_ne_nil _ _)]
  show pickBest [(0, (minimaxL 1 [some O, some X, none, some O, some X, some O, some X, some O, some X] X O).2), (2, (minimaxL 1 [none, some X, some O, some O, some X, some O, some X, some O, some X] X O).2)] O = (some 0, 1)
  rw [mmv_1557, mmv_1817]
  rfl

theorem mmv_2047 : minimaxL 3 [none, some X, none, some O, none, some O, some X, some O, some X] X O = (some 4, 1) := by
  rw [minimaxL_succ 2 [none, some X, none, some O, none, some O, some X, some O, some X] X O [0, 2, 4] rfl rfl (List.cons_ne_nil _ _)]
  show pickBest [(0, (minimaxL 2 [some X, some X, none, some O, none, some O, some X, some O, some X] O X).2), (2, (minimaxL 2 [none, some X, some X, some O, none, some O, some X, some O, some X] O X).2), (4, (minimaxL 2 [none, some X, none, some O, some X, some O, some X, some O, some X] O X).2)] X = (some 4, 1)
  rw [mmv_2048, mmv_2049, mmv_2050]
  rfl

theorem mmv_2044 : minimaxL 4 [none, some X, none, some O, none, none, some X, some O, some X] O X = (some 2, 0) := by
  rw [minimaxL_succ 3 [none, some X, none, some O, none, none, some X, some O, some X] O X [0, 2, 4, 5] rfl rfl (List.cons_ne_nil _ _)]
  show pickBest [(0, (minimaxL 3 [some O, some X, none, some O, none, none, some X, some O, some X] X O).2), (2, (minimaxL 3 [none, some X, some O, some O, none, none, some X, some O, some X] X O).2), (4, (minimaxL 3 [none, some X, none, some O, some O, none, some X, some O, some X] X O).2), (5, (minimaxL 3 [none, some X, none, some O, none, some O, some X, some O, some X] X O).2)] O = (some 2, 0)
  rw [mmv_1674, mmv_1895, mmv_2045, mmv_2047]
  rfl

theorem mmv_2039 : minimaxL 5 [none, some X, none, some O, none, none, some X, some O, none] X O = (some 2, 1) := by
  rw [minimaxL_succ 4 [none, some X, none, some O, none, none, some X, some O, none] X O [0, 2, 4, 5, 8] rfl rfl (List.cons_ne_nil _ _)]
  show pickBest [(0, (minimaxL 4 [some X, some X, none, some O, none, none, some X, some O, none] O X).2), (2, (minimaxL 4 [none, some X, some X, some O, none, none, some X, some O, none] O X).2), (4, (minimaxL 4 [none, some X, none, some O, some X, none, some X, some O, none] O X).2), (5, (minimaxL 4 [none, some X, none, some O, none, some X, some X, some O, none] O X).2), (8, (minimaxL 4 [none, some X, none, some O, none, none, some X, some O, some X] O X).2)] X = (some 2, 1)
  rw [mmv_0877, mmv_2040, mmv_1968, mmv_2011, mmv_2044]
  rfl

theorem mmv_2053 : minimaxL 3 [none, some X, some X, some O, some O, none, some X, none, some O] X O = (some 0, 1) := rfl

theorem mmv_2054 : minimaxL 3 [none, some X, some X, some O, none, some O, some X, none, some O] X O = (some 0, 1) := rfl

theorem mmv_2052 : minimaxL 4 [none, some X, some X, some O, none, none, some X, none, some O] O X = (some 0, 1) := by
  rw [minimaxL_succ 3 [none, some X, some X, some O, none, none, some X, none, some O] O X [0, 4, 5, 7] rfl rfl (List.cons_ne_nil _ _)]
  show pickBest [(0, (minimaxL 3 [some O, some X, some X, some O, none, none, some X, none, some O] X O).2), (4, (minimaxL 3 [none, some X, some X, some O, some O, none, some X, none, some O] X O).2), (5, (minimaxL 3 [none, some X, some X, some O, none, some O, some X, none, some O] X O).2), (7, (minimaxL 3 [none, some X, some X, some O, none, none, some X, some O, some O] X O).2)] O = (some 0, 1)
  rw [mmv_1245, mmv_2053, mmv_2054, mmv_2043]
  rfl

theorem mmv_2055 : minimaxL 4 [none, some X, none, some O, some X, none, some X, none, some O] O X = (some 0, 1) := by
  rw [minimaxL_succ 3 [none, some X, none, some O, some X, none, some X, none, some O] O X [0, 2, 5, 7] rfl rfl (List.cons_ne_nil _ _)]
  show pickBest [(0, (minimaxL 3 [some O, some X, none, some O, some X, none, some X, none, some O] X O).2), (2, (minimaxL 3 [none, some X, some O, some O, some X, none, some X, none, some O] X O).2), (5, (minimaxL 3 [none, some X, none, some O, some X, some O, some X, none, some O] X O).2), (7, (minimaxL 3 [none, some X, none, some O, some X, none, some X, some O, some O] X O).2)] O = (some 0, 1)
  rw [mmv_1666, mmv_1887, mmv_2036, mmv_1970]
  rfl

theorem mmv_2058 : minimaxL 2 [none, some X, some X, some O, some O, none, some X, some X, some O] O X = (some 5, -1) := rfl

theorem mmv_2057 : minimaxL 3 [none, some X, none, some O, some O, none, some X, some X, some O] X O = (some 5, -1) := by
  rw [minimaxL_succ 2 [none, some X, none, some O, some O, none, some X, some X, some O] X O [0, 2, 5] rfl rfl (List.cons_ne_nil _ _)]
  show pickBest [(0, (minimaxL 2 [some X, some X, none, some O, some O, none, some X, some X, some O] O X).2), (2, (minimaxL 2 [none, some X, some X, some O, some O, none, some X, some X, some O] O X).2), (5, (minimaxL 2 [none, some X, none, some O, some O, some X, some X, some X, some O] O X).2)] X = (some 5, -1)
  rw [mmv_0900, mmv_2058, mmv_1989]
  rfl

theorem mmv_2059 : minimaxL 3 [none, some X, none, some O, none, some O, some X, some X, some O] X O = (some 4, 1) := rfl

theorem mmv_2056 : minimaxL 4 [none, some X, none, some O, none, none, some X, some X, some O] O X = (some 4, -1) := by
  rw [minimaxL_succ 3 [none, some X, none, some O, none, none, some X, some X, some O] O X [0, 2, 4, 5] rfl rfl (List.cons_ne_nil _ _)]
  show pickBest [(0, (minimaxL 3 [some O, some X, none, some O, none, none, some X, some X, some O] X O).2), (2, (minimaxL 3 [none, some X, some O, some O, none, none, some X, some X, some O] X O).2), (4, (minimaxL 3 [none, some X, none, some O, some O, none, some X, some X, some O] X O).2), (5, (minimaxL 3 [none, some X, none, some O, none, some O, some X, some X, some O] X O).2)] O = (some 4, -1)
  rw [mmv_1670, mmv_1891, mmv_2057, mmv_2059]
  rfl

theorem mmv_2051 : minimaxL 5 [none, some X, none, some O, none, none, some X, none, some O] X O = (some 4, 1) := by
  rw [minimaxL_succ 4 [none, some X, none, some O, none, none, some X, none, some O] X O [0, 2, 4, 5, 7] rfl rfl (List.cons_ne_nil _ _)]
  show pickBest [(0, (minimaxL 4 [some X, some X, none, some O, none, none, some X, none, some O] O X).2), (2, (minimaxL 4 [none, some X, some X, some O, none, none, some X, none, some O] O X).2), (4, (minimaxL 4 [none, some X, none, some O, some X, none, some X, none, some O] O X).2), (5, (minimaxL 4 [none, some X, none, some O, none, some X, some X, none, some O] O X).2), (7, (minimaxL 4 [none, some X, none, some O, none, none, some X, some X, some O] O X).2)] X = (some 4, 1)
  rw [mmv_0892, mmv_2052, mmv_2055, mmv_2024, mmv_2056]
  rfl

theorem mmv_2028 : minimaxL 6 [none, some X, none, some O, none, none, some X, none, none] O X = (some 4, 0) := by
  rw [minimaxL_succ 5 [none, some X, none, some O, none, none, some X, none, none] O X [0, 2, 4, 5, 7, 8] rfl rfl (List.cons_ne_nil _ _)]
  show pickBest [(0, (minimaxL 5 [some O, some X, none, some O, none, none, some X, none, none] X O).2), (2, (minimaxL 5 [none, some X, some O, some O, none, none, some X, none, none] X O).2), (4, (minimaxL 5 [none, some X, none, some O, some O, none, some X, none, none] X O).2), (5, (minimaxL 5 [none, some X, none, some O, none, some O, some X, none, none] X O).2), (7, (minimaxL 5 [none, some X, none, some O, none, none, some X, some O, none] X O).2), (8, (minimaxL 5 [none, some X, none, some O, none, none, some X, none, some O] X O).2)] O = (some 4, 0)
  rw [mmv_1663, mmv_1884, mmv_2029, mmv_2033, mmv_2039, mmv_2051]
  rfl

theorem mmv_2062 : minimaxL 4 [none, some X, some X, some O, some O, none, none, some X, none] O X = (some 5, -1) := rfl

theorem mmv_2063 : minimaxL 4 [none, some X, none, some O, some O, none, none, some X, some X] O X = (some 5, -1) := rfl

theorem mmv_2061 : minimaxL 5 [none, some X, none, some O, some O, none, none, some X, none] X O = (some 8, -1) := by
  rw [minimaxL_succ 4 [none, some X, none, some O, some O, none, none, some X, none] X O [0, 2, 5, 6, 8] rfl rfl (List.cons_ne_nil _ _)]
  show pickBest [(0, (minimaxL 4 [some X, some X, none, some O, some O, none, none, some X, none] O X).2), (2, (minimaxL 4 [none, some X, some X, some O, some O, none, none, some X, none] O X).2), (5, (minimaxL 4 [none, some X, none, some O, some O, some X, none, some X, none] O X).2), (6, (minimaxL 4 [none, some X, none, some O, some O, none, some X, some X, none] O X).2), (8, (minimaxL 4 [none, some X, none, some O, some O, none, none, some X, some X] O X).2)] X = (some 8, -1)
  rw [mmv_0908, mmv_2062, mmv_1990, mmv_2031, mmv_2063]
  rfl

theorem mmv_2064 : minimaxL 5 [none, some X, none, some O, none, some O, none, some X, none] X O = (some 4, 1) := rfl

theorem mmv_2065 : minimaxL 5 [none, some X, none, some O, none, none, some O, some X, none] X O = (some 4, 1) := rfl

theorem mmv_2066 : minimaxL 5 [none, some X, none, some O, none, none, none, some X, some O] X O = (some 4, 1) := rfl

theorem mmv_2060 : minimaxL 6 [none, some X, none, some O, none, none, none, some X, none] O X = (some 4, -1) := by
  rw [minimaxL_succ 5 [none, some X, none, some O, none, none, none, some X, none] O X [0, 2, 4, 5, 6, 8] rfl rfl (List.cons_ne_nil _ _)]
  show pickBest [(0, (minimaxL 5 [some O, some X, none, some O, none, none, none, some X, none] X O).2), (2, (minimaxL 5 [none, some X, some O, some O, none, none, none, some X, none] X O).2), (4, (minimaxL 5 [none, some X, none, some O, some O, none, none, some X, none] X O).2), (5, (minimaxL 5 [none, some X, none, some O, none, some O, none, some X, none] X O).2), (6, (minimaxL 5 [none, some X, none, some O, none, none, some O, some X, none] X O).2), (8, (minimaxL 5 [none, some X, none, some O, none, none, none, some X, some O] X O).2)] O = (some 4, -1)
  rw [mmv_1696, mmv_1916, mmv_2061, mmv_2064, mmv_2065, mmv_2066]
  rfl

theorem mmv_2069 : minimaxL 4 [none, some X, some X, some O, some O, none, none, none, some X] O X = (some 5, -1) := rfl

theorem mmv_2068 : minimaxL 5 [none, some X, none, some O, some O, none, none, none, some X] X O = (some 5, 0) := by
  rw [minimaxL_succ 4 [none, some X, none, some O, some O, none, none, none, some X] X O [0, 2, 5, 6, 7] rfl rfl (List.cons_ne_nil _ _)]
  show pickBest [(0, (minimaxL 4 [some X, some X, none, some O, some O, none, none, none, some X] O X).2), (2, (minimaxL 4 [none, some X, some X, some O, some O, none, none, none, some X] O X).2), (5, (minimaxL 4 [none, some X, none, some O, some O, some X, none, none, some X] O X).2), (6, (minimaxL 4 [none, some X, none, some O, some O, none, some X, none, some X] O X).2), (7, (minimaxL 4 [none, some X, none, some O, some O, none, none, some X, some X] O X).2)] X = (some 5, 0)
  rw [mmv_0941, mmv_2069, mmv_1999, mmv_2032, mmv_2063]
  rfl

theorem mmv_2071 : minimaxL 4 [some X, some X, none, some O, none, some O, none, none, some X] O X = (some 4, -1) := rfl

theorem mmv_2072 : minimaxL 4 [none, some X, some X, some O, none, some O, none, none, some X] O X = (some 4, -1) := rfl

theorem mmv_2074 : minimaxL 3 [none, some X, none, some O, some X, some O, some O, none, some X] X O = (some 7, 1) := rfl

theorem mmv_2073 : minimaxL 4 [none, some X, none, some O, some X, some O, none, none, some X] O X = (some 0, 1) := by
  rw [minimaxL_succ 3 [none, some X, none, some O, some X, some O, none, none, some X] O X [0, 2, 6, 7] rfl rfl (List.cons_ne_nil _ _)]
  show pickBest [(0, (minimaxL 3 [some O, some X, none, some O, some X, some O, none, none, some X] X O).2), (2, (minimaxL 3 [none, some X, some O, some O, some X, some O, none, none, some X] X O).2), (6, (minimaxL 3 [none, some X, none, some O, some X, some O, some O, none, some X] X O).2), (7, (minimaxL 3 [none, some X, none, some O, some X, some O, none, some O, some X] X O).2)] O = (some 0, 1)
  rw [mmv_1724, mmv_1925, mmv_2074, mmv_1972]
  rfl

theorem mmv_2075 : minimaxL 4 [none, some X, none, some O, none, some O, none, some X, some X] O X = (some 4, -1) := rfl

theorem mmv_2070 : minimaxL 5 [none, some X, none, some O, none, some O, none, none, some X] X O = (some 4, 1) := by
  rw [minimaxL_succ 4 [none, some X, none, some O, none, some O, none, none, some X] X O [0, 2, 4, 6, 7] rfl rfl (List.cons_ne_nil _ _)]
  show pickBest [(0, (minimaxL 4 [some X, some X, none, some O, none, some O, none, none, some X] O X).2), (2, (minimaxL 4 [none, some X, some X, some O, none, some O, none, none, some X] O X).2), (4, (minimaxL 4 [none, some X, none, some O, some X, some O, none, none, some X] O X).2), (6, (minimaxL 4 [none, some X, none, some O, none, some O, some X, none, some X] O X).2), (7, (minimaxL 4 [none, some X, none, some O, none, some O, none, some X, some X] O X).2)] X = (some 4, 1)
  rw [mmv_2071, mmv_2072, mmv_2073, mmv_2038, mmv_2075]
  rfl

theorem mmv_2078 : minimaxL 3 [some X, some X, none, some O, some O, none, some O, none, some X] X O = (some 2, 1) := rfl

theorem mmv_2079 : minimaxL 3 [some X, some X, none, some O, none, some O, some O, none, some X] X O = (some 2, 1) := rfl

theorem mmv_2080 : minimaxL 3 [some X, some X, none, some O, none, none, some O, some O, some X] X O = (some 2, 1) := rfl

theorem mmv_2077 : minimaxL 4 [some X, some X, none, some O, none, none, some O, none, some X] O X = (some 2, 1) := by
  rw [minimaxL_succ 3 [some X, some X, none, some O, none, none, some O, none, some X] O X [2, 4, 5, 7] rfl rfl (List.cons_ne_nil _ _)]
  show pickBest [(2, (minimaxL 3 [some X, some X, some O, some O, none, none, some O, none, some X] X O).2), (4, (minimaxL 3 [some X, some X, none, some O, some O, none, some O, none, some X] X O).2), (5, (minimaxL 3 [some X, some X, none, some O, none, some O, some O, none, some X] X O).2), (7, (minimaxL 3 [some X, some X, none, some O, none, none, some O, some O, some X] X O).2)] O = (some 2, 1)
  rw [mmv_0520, mmv_2078, mmv_2079, mmv_2080]
  rfl

theorem mmv_2081 : minimaxL 4 [none, some X, some X, some O, none, none, some O, none, some X] O X = (some 0, -1) := rfl

theorem mmv_2082 : minimaxL 4 [none, some X, none, some O, some X, none, some O, none, some X] O X = (some 0, -1) := rfl

theorem mmv_2083 : minimaxL 4 [none, some X, none, some O, none, none, some O, some X, some X] O X = (some 0, -1) := rfl

theorem mmv_2076 : minimaxL 5 [none, some X, none, some O, none, none, some O, none, some X] X O = (some 0, 1) := by
  rw [minimaxL_succ 4 [none, some X, none, some O, none, none, some O, none, some X] X O [0, 2, 4, 5, 7] rfl rfl (List.cons_ne_nil _ _)]
  show pickBest [(0, (minimaxL 4 [some X, some X, none, some O, none, none, some O, none, some X] O X).2), (2, (minimaxL 4 [none, some X, some X, some O, none, none, some O, none, some X] O X).2), (4, (minimaxL 4 [none, some X, none, some O, some X, none, some O, none, some X] O X).2), (5, (minimaxL 4 [none, some X, none, some O, none, some X, some O, none, some X] O X).2), (7, (minimaxL 4 [none, some X, none, some O, none, none, some O, some X, some X] O X).2)] X = (some 0, 1)
  rw [mmv_2077, mmv_2081, mmv_2082, mmv_2006, mmv_2083]
  rfl

theorem mmv_2086 : minimaxL 3 [some X, some X, none, some O, none, some O, none, some O, some X] X O = (some 2, 1) := rfl

theorem mmv_2085 : minimaxL 4 [some X, some X, none, some O, none, none, none, some O, some X] O X = (some 2, 1) := by
  rw [minimaxL_succ 3 [some X, some X, none, some O, none, none, none, some O, some X] O X [2, 4, 5, 6] rfl rfl (List.cons_ne_nil _ _)]
  show pickBest [(2, (minimaxL 3 [some X, some X, some O, some O, none, none, none, some O, some X] X O).2), (4, (minimaxL 3 [some X, some X, none, some O, some O, none, none, some O, some X] X O).2), (5, (minimaxL 3 [some X, some X, none, some O, none, some O, none, some O, some X] X O).2), (6, (minimaxL 3 [some X, some X, none, some O, none, none, some O, some O, some X] X O).2)] O = (some 2, 1)
  rw [mmv_0521, mmv_1064, mmv_2086, mmv_2080]
  rfl

theorem mmv_2088 : minimaxL 3 [none, some X, some X, some O, some O, none, none, some O, some X] X O = (some 0, 1) := rfl

theorem mmv_2089 : minimaxL 3 [none, some X, some X, some O, none, some O, none, some O, some X] X O = (some 0, 1) := rfl

theorem mmv_2090 : minimaxL 3 [none, some X, some X, some O, none, none, some O, some O, some X] X O = (some 0, 1) := rfl

theorem mmv_2087 : minimaxL 4 [none, some X, some X, some O, none, none, none, some O, some X] O X = (some 0, 1) := by
  rw [minimaxL_succ 3 [none, some X, some X, some O, none, none, none, some O, some X] O X [0, 4, 5, 6] rfl rfl (List.cons_ne_nil _ _)]
  show pickBest [(0, (minimaxL 3 [some O, some X, some X, some O, none, none, none, some O, some X] X O).2), (4, (minimaxL 3 [none, some X, some X, some O, some O, none, none, some O, some X] X O).2), (5, (minimaxL 3 [none, some X, some X, some O, none, some O, none, some O, some X] X O).2), (6, (minimaxL 3 [none, some X, some X, some O, none, none, some O, some O, some X] X O).2)] O = (some 0, 1)
  rw [mmv_1370, mmv_2088, mmv_2089, mmv_2090]
  rfl

theorem mmv_2084 : minimaxL 5 [none, some X, none, some O, none, none, none, some O, some X] X O = (some 2, 1) := by
  rw [minimaxL_succ 4 [none, some X, none, some O, none, none, none, some O, some X] X O [0, 2, 4, 5, 6] rfl rfl (List.cons_ne_nil _ _)]
  show pickBest [(0, (minimaxL 4 [some X, some X, none, some O, none, none, none, some O, some X] O X).2), (2, (minimaxL 4 [none, some X, some X, some O, none, none, none, some O, some X] O X).2), (4, (minimaxL 4 [none, some X, none, some O, some X, none, none, some O, some X] O X).2), (5, (minimaxL 4 [none, some X, none, some O, none, some X, none, some O, some X] O X).2), (6, (minimaxL 4 [none, some X, none, some O, none, none, some X, some O, some X] O X).2)] X = (some 2, 1)
  rw [mmv_2085, mmv_2087, mmv_1971, mmv_2014, mmv_2044]
  rfl

theorem mmv_2067 : minimaxL 6 [none, some X, none, some O, none, none, none, none, some X] O X = (some 4, 0) := by
  rw [minimaxL_succ 5 [none, some X, none, some O, none, none, none, none, some X] O X [0, 2, 4, 5, 6, 7] rfl rfl (List.cons_ne_nil _ _)]
  show pickBest [(0, (minimaxL 5 [some O, some X, none, some O, none, none, none, none, some X] X O).2), (2, (minimaxL 5 [none, some X, some O, some O, none, none, none, none, some X] X O).2), (4, (minimaxL 5 [none, some X, none, some O, some O, none, none, none, some X] X O).2), (5, (minimaxL 5 [none, some X, none, some O, none, some O, none, none, some X] X O).2), (6, (minimaxL 5 [none, some X, none, some O, none, none, some O, none, some X] X O).2), (7, (minimaxL 5 [none, some X, none, some O, none, none, none, some O, some X] X O).2)] O = (some 4, 0)
  rw [mmv_1718, mmv_1923, mmv_2068, mmv_2070, mmv_2076, mmv_2084]
  rfl

theorem mmv_1942 : minimaxL 7 [none, some X, none, some O, none, none, none, none, none] X O = (some 4, 1) := by
  rw [minimaxL_succ 6 [none, some X, none, some O, none, none, none, none, none] X O [0, 2, 4, 5, 6, 7, 8] rfl rfl (List.cons_ne_nil _ _)]
  show pickBest [(0, (minimaxL 6 [some X, some X, none, some O, none, none, none, none, none] O X).2), (2, (minimaxL 6 [none, some X, some X, some O, none, none, none, none, none] O X).2), (4, (minimaxL 6 [none, some X, none, some O, some X, none, none, none, none] O X).2), (5, (minimaxL 6 [none, some X, none, some O, none, some X, none, none, none] O X).2), (6, (minimaxL 6 [none, some X, none, some O, none, none, some X, none, none] O X).2), (7, (minimaxL 6 [none, some X, none, some O, none, none, none, some X, none] O X).2), (8, (minimaxL 6 [none, some X, none, some O, none, none, none, none, some X] O X).2)] X = (some 4, 1)
  rw [mmv_0758, mmv_1943, mmv_1949, mmv_1975, mmv_2028, mmv_2060, mmv_2067]
  rfl

theorem mmv_2093 : minimaxL 5 [none, some X, some X, none, some O, some O, none, none, none] X O = (some 0, 1) := rfl

theorem mmv_2094 : minimaxL 5 [none, some X, some X, none, some O, none, some O, none, none] X O = (some 0, 1) := rfl

theorem mmv_2095 : minimaxL 5 [none, some X, some X, none, some O, none, none, some O, none] X O = (some 0, 1) := rfl

theorem mmv_2096 : minimaxL 5 [none, some X, some X, none, some O, none, none, none, some O] X O = (some 0, 1) := rfl

theorem mmv_2092 : minimaxL 6 [none, some X, some X, none, some O, none, none, none, none] O X = (some 0, 0) := by
  rw [minimaxL_succ 5 [none, some X, some X, none, some O, none, none, none, none] O X [0, 3, 5, 6, 7, 8] rfl rfl (List.cons_ne_nil _ _)]
  show pickBest [(0, (minimaxL 5 [some O, some X, some X, none, some O, none, none, none, none] X O).2), (3, (minimaxL 5 [none, some X, some X, some O, some O, none, none, none, none] X O).2), (5, (minimaxL 5 [none, some X, some X, none, some O, some O, none, none, none] X O).2), (6, (minimaxL 5 [none, some X, some X, none, some O, none, some O, none, none] X O).2), (7, (minimaxL 5 [none, some X, some X, none, some O, none, none, some O, none] X O).2), (8, (minimaxL 5 [none, some X, some X, none, some O, none, none, none, some O] X O).2)] O = (some 0, 0)
  rw [mmv_1248, mmv_1944, mmv_2093, mmv_2094, mmv_2095, mmv_2096]
  rfl

theorem mmv_2100 : minimaxL 3 [some X, some X, some O, some X, some O, some O, none, none, none] X O = (some 6, 1) := rfl

theorem mmv_2101 : minimaxL 3 [some X, some X, none, some X, some O, some O, none, some O, none] X O = (some 2, 1) := rfl

theorem mmv_2102 : minimaxL 3 [some X, some X, none, some X, some O, some O, none, none, some O] X O = (some 2, 1) := rfl

theorem mmv_2099 : minimaxL 4 [some X, some X, none, some X, some O, some O, none, none, none] O X = (some 2, 1) := by
  rw [minimaxL_succ 3 [some X, some X, none, some X, some O, some O, none, none, none] O X [2, 6, 7, 8] rfl rfl (List.cons_ne_nil _ _)]
  show pickBest [(2, (minimaxL 3 [some X, some X, some O, some X, some O, some O, none, none, none] X O).2), (6, (minimaxL 3 [some X, some X, none, some X, some O, some O, some O, none, none] X O).2), (7, (minimaxL 3 [some X, some X, none, some X, some O, some O, none, some O, none] X O).2), (8, (minimaxL 3 [some X, some X, none, some X, some O, some O, none, none, some O] X O).2)] O = (some 2, 1)
  rw [mmv_2100, mmv_1086, mmv_2101, mmv_2102]
  rfl

theorem mmv_2104 : minimaxL 3 [none, some X, some X, some X, some O, some O, some O, none, none] X O = (some 0, 1) := rfl

theorem mmv_2105 : minimaxL 3 [none, some X, some X, some X, some O, some O, none, some O, none] X O = (some 0, 1) := rfl

theorem mmv_2106 : minimaxL 3 [none, some X, some X, some X, some O, some O, none, none, some O] X O = (some 0, 1) := rfl

theorem mmv_2103 : minimaxL 4 [none, some X, some X, some X, some O, some O, none, none, none] O X = (some 0, 0) := by
  rw [minimaxL_succ 3 [none, some X, some X, some X, some O, some O, none, none, none] O X [0, 6, 7, 8] rfl rfl (List.cons_ne_nil _ _)]
  show pickBest [(0, (minimaxL 3 [some O, some X, some X, some X, some O, some O, none, none, none] X O).2), (6, (minimaxL 3 [none, some X, some X, some X, some O, some O, some O, none, none] X O).2), (7, (minimaxL 3 [none, some X, some X, some X, some O, some O, none, some O, none] X O).2), (8, (minimaxL 3 [none, some X, some X, some X, some O, some O, none, none, some O] X O).2)] O = (some 0, 0)
  rw [mmv_1267, mmv_2104, mmv_2105, mmv_2106]
  rfl

theorem mmv_2108 : minimaxL 3 [none, some X, none, some X, some O, some O, some X, some O, none] X O = (some 0, 1) := rfl

theorem mmv_2109 : minimaxL 3 [none, some X, none, some X, some O, some O, some X, none, some O] X O = (some 0, 1) := rfl

theorem mmv_2107 : minimaxL 4 [none, some X, none, some X, some O, some O, some X, none, none] O X = (some 0, 0) := by
  rw [minimaxL_succ 3 [none, some X, none, some X, some O, some O, some X, none, none] O X [0, 2, 7, 8] rfl rfl (List.cons_ne_nil _ _)]
  show pickBest [(0, (minimaxL 3 [some O, some X, none, some X, some O, some O, some X, none, none] X O).2), (2, (minimaxL 3 [none, some X, some O, some X, some O, some O, some X, none, none] X O).2), (7, (minimaxL 3 [none, some X, none, some X, some O, some O, some X, some O, none] X O).2), (8, (minimaxL 3 [none, some X, none, some X, some O, some O, some X, none, some O] X O).2)] O = (some 0, 0)
  rw [mmv_1472, mmv_1738, mmv_2108, mmv_2109]
  rfl

theorem mmv_2112 : minimaxL 2 [some X, some X, some O, some X, some O, some O, none, some X, none] O X = (some 6, -1) := rfl

theorem mmv_2113 : minimaxL 2 [none, some X, some O, some X, some O, some O, some X, some X, none] O X = (some 8, -1) := rfl

theorem mmv_2111 : minimaxL 3 [none, some X, some O, some X, some O, some O, none, some X, none] X O = (some 8, -1) := by
  rw [minimaxL_succ 2 [none, some X, some O, some X, some O, some O, none, some X, none] X O [0, 6, 8] rfl rfl (List.cons_ne_nil _ _)]
  show pickBest [(0, (minimaxL 2 [some X, some X, some O, some X, some O, some O, none, some X, none] O X).2), (6, (minimaxL 2 [none, some X, some O, some X, some O, some O, some X, some X, none] O X).2), (8, (minimaxL 2 [none, some X, some O, some X, some O, some O, none, some X, some X] O X).2)] X = (some 8, -1)
  rw [mmv_2112, mmv_2113, mmv_1751]
  rfl

theorem mmv_2116 : minimaxL 1 [none, some X, some X, some X, some O, some O, some O, some X, some O] X O = (some 0, 1) := rfl

theorem mmv_2115 : minimaxL 2 [none, some X, some X, some X, some O, some O, some O, some X, none] O X = (some 0, 0) := by
  rw [minimaxL_succ 1 [none, some X, some X, some X, some O, some O, some O, some X, none] O X [0, 8] rfl rfl (List.cons_ne_nil _ _)]
  show pickBest [(0, (minimaxL 1 [some O, some X, some X, some X, some O, some O, some O, some X, none] X O).2), (8, (minimaxL 1 [none, some X, some X, some X, some O, some O, some O, some X, some O] X O).2)] O = (some 0, 0)
  rw [mmv_1276, mmv_2116]
  rfl

theorem mmv_2117 : minimaxL 2 [none, some X, none, some X, some O, some O, some O, some X, some X] O X = (some 2, -1) := rfl

theorem mmv_2114 : minimaxL 3 [none, some X, none, some X, some O, some O, some O, some X, none] X O = (some 2, 0) := by
  rw [minimaxL_succ 2 [none, some X, none, some X, some O, some O, some O, some X, none] X O [0, 2, 8] rfl rfl (List.cons_ne_nil _ _)]
  show pickBest [(0, (minimaxL 2 [some X, some X, none, some X, some O, some O, some O, some X, none] O X).2), (2, (minimaxL 2 [none, some X, some X, some X, some O, some O, some O, some X, none] O X).2), (8, (minimaxL 2 [none, some X, none, some X, some O, some O, some O, some X, some X] O X).2)] X = (some 2, 0)
  rw [mmv_1014, mmv_2115, mmv_2117]
  rfl

theorem mmv_2119 : minimaxL 2 [some X, some X, none, some X, some O, some O, none, some X, some O] O X = (some 2, -1) := rfl

theorem mmv_2120 : minimaxL 2 [none, some X, some X, some X, some O, some O, none, some X, some O] O X = (some 0, -1) := rfl

theorem mmv_2121 : minimaxL 2 [none, some X, none, some X, some O, some O, some X, some X, some O] O X = (some 0, -1) := rfl

theorem mmv_2118 : minimaxL 3 [none, some X, none, some X, some O, some O, none, some X, some O] X O = (some 6, -1) := by
  rw [minimaxL_succ 2 [none, some X, none, some X, some O, some O, none, some X, some O] X O [0, 2, 6] rfl rfl (List.cons_ne_nil _ _)]
  show pickBest [(0, (minimaxL 2 [some X, some X, none, some X, some O, some O, none, some X, some O] O X).2), (2, (minimaxL 2 [none, some X, some X, some X, some O, some O, none, some X, some O] O X).2), (6, (minimaxL 2 [none, some X, none, some X, some O, some O, some X, some X, some O] O X).2)] X = (some 6, -1)
  rw [mmv_2119, mmv_2120, mmv_2121]
  rfl

theorem mmv_2110 : minimaxL 4 [none, some X, none, some X, some O, some O, none, some X, none] O X = (some 2, -1) := by
  rw [minimaxL_succ 3 [none, some X, none, some X, some O, some O, none, some X, none] O X [0, 2, 6, 8] rfl rfl (List.cons_ne_nil _ _)]
  show pickBest [(0, (minimaxL 3 [some O, some X, none, some X, some O, some O, none, some X, none] X O).2), (2, (minimaxL 3 [none, some X, some O, some X, some O, some O, none, some X, none] X O).2), (6, (minimaxL 3 [none, some X, none, some X, some O, some O, some O, some X, none] X O).2), (8, (minimaxL 3 [none, some X, none, some X, some O, some O, none, some X, some O] X O).2)] O = (some 2, -1)
  rw [mmv_1480, mmv_2111, mmv_2114, mmv_2118]
  rfl

theorem mmv_2125 : minimaxL 1 [none, some X, some X, some X, some O, some O, some O, some O, some X] X O = (some 0, 1) := rfl

theorem mmv_2124 : minimaxL 2 [none, some X, some X, some X, some O, some O, some O, none, some X] O X = (some 0, 0) := by
  rw [minimaxL_succ 1 [none, some X, some X, some X, some O, some O, some O, none, some X] O X [0, 7] rfl rfl (List.cons_ne_nil _ _)]
  show pickBest [(0, (minimaxL 1 [some O, some X, some X, some X, some O, some O, some O, none, some X] X O).2), (7, (minimaxL 1 [none, some X, some X, some X, some O, some O, some O, some O, some X] X O).2)] O = (some 0, 0)
  rw [mmv_1257, mmv_2125]
  rfl

theorem mmv_2123 : minimaxL 3 [none, some X, none, some X, some O, some O, some O, none, some X] X O = (some 2, 0) := by
  rw [minimaxL_succ 2 [none, some X, none, some X, some O, some O, some O, none, some X] X O [0, 2, 7] rfl rfl (List.cons_ne_nil _ _)]
  show pickBest [(0, (minimaxL 2 [some X, some X, none, some X, some O, some O, some O, none, some X] O X).2), (2, (minimaxL 2 [none, some X, some X, some X, some O, some O, some O, none, some X] O X).2), (7, (minimaxL 2 [none, some X, none, some X, some O, some O, some O, some X, some X] O X).2)] X = (some 2, 0)
  rw [mmv_1051, mmv_2124, mmv_2117]
  rfl

theorem mmv_2128 : minimaxL 1 [some X, some X, none, some X, some O, some O, some O, some O, some X] X O = (some 2, 1) := rfl

theorem mmv_2127 : minimaxL 2 [some X, some X, none, some X, some O, some O, none, some O, some X] O X = (some 2, 1) := by
  rw [minimaxL_succ 1 [some X, some X, none, some X, some O, some O, none, some O, some X] O X [2, 6] rfl rfl (List.cons_ne_nil _ _)]
  show pickBest [(2, (minimaxL 1 [some X, some X, some O, some X, some O, some O, none, some O, some X] X O).2), (6, (minimaxL 1 [some X, some X, none, some X, some O, some O, some O, some O, some X] X O).2)] O = (some 2, 1)
  rw [mmv_1758, mmv_2128]
  rfl

theorem mmv_2129 : minimaxL 2 [none, some X, some X, some X, some O, some O, none, some O, some X] O X = (some 0, 0) := by
  rw [minimaxL_succ 1 [none, some X, some X, some X, some O, some O, none, some O, some X] O X [0, 6] rfl rfl (List.cons_ne_nil _ _)]
  show pickBest [(0, (minimaxL 1 [some O, some X, some X, some X, some O, some O, none, some O, some X] X O).2), (6, (minimaxL 1 [none, some X, some X, some X, some O, some O, some O, some O, some X] X O).2)] O = (some 0, 0)
  rw [mmv_1259, mmv_2125]
  rfl

theorem mmv_2130 : minimaxL 2 [none, some X, none, some X, some O, some O, some X, some O, some X] O X = (some 0, 0) := by
  rw [minimaxL_succ 1 [none, some X, none, some X, some O, some O, some X, some O, some X] O X [0, 2] rfl rfl (List.cons_ne_nil _ _)]
  show pickBest [(0, (minimaxL 1 [some O, some X, none, some X, some O, some O, some X, some O, some X] X O).2), (2, (minimaxL 1 [none, some X, some O, some X, some O, some O, some X, some O, some X] X O).2)] O = (some 0, 0)
  rw [mmv_1452, mmv_1750]
  rfl

theorem mmv_2126 : minimaxL 3 [none, some X, none, some X, some O, some O, none, some O, some X] X O = (some 0, 1) := by
  rw [minimaxL_succ 2 [none, some X, none, some X, some O, some O, none, some O, some X] X O [0, 2, 6] rfl rfl (List.cons_ne_nil _ _)]
  show pickBest [(0, (minimaxL 2 [some X, some X, none, some X, some O, some O, none, some O, some X] O X).2), (2, (minimaxL 2 [none, some X, some X, some X, some O, some O, none, some O, some X] O X).2), (6, (minimaxL 2 [none, some X, none, some X, some O, some O, some X, some O, some X] O X).2)] X = (some 0, 1)
  rw [mmv_2127, mmv_2129, mmv_2130]
  rfl

theorem mmv_2122 : minimaxL 4 [none, some X, none, some X, some O, some O, none, none, some X] O X = (some 0, 0) := by
  rw [minimaxL_succ 3 [none, some X, none, some X, some O, some O, none, none, some X] O X [0, 2, 6, 7] rfl rfl (List.cons_ne_nil _ _)]
  show pickBest [(0, (minimaxL 3 [some O, some X, none, some X, some O, some O, none, none, some X] X O).2), (2, (minimaxL 3 [none, some X, some O, some X, some O, some O, none, none, some X] X O).2), (6, (minimaxL 3 [none, some X, none, some X, some O, some O, some O, none, some X] X O).2), (7, (minimaxL 3 [none, some X, none, some X, some O, some O, none, some O, some X] X O).2)] O = (some 0, 0)
  rw [mmv_1450, mmv_1748, mmv_2123, mmv_2126]
  rfl

theorem mmv_2098 : minimaxL 5 [none, some X, none, some X, some O, some O, none, none, none] X O = (some 0, 1) := by
  rw [minimaxL_succ 4 [none, some X, none, some X, some O, some O, none, none, none] X O [0, 2, 6, 7, 8] rfl rfl (List.cons_ne_nil _ _)]
  show pickBest [(0, (minimaxL 4 [some X, some X, none, some X, some O, some O, none, none, none] O X).2), (2, (minimaxL 4 [none, some X, some X, some X, some O, some O, none, none, none] O X).2), (6, (minimaxL 4 [none, some X, none, some X, some O, some O, some X, none, none] O X).2), (7, (minimaxL 4 [none, some X, none, some X, some O, some O, none, some X, none] O X).2), (8, (minimaxL 4 [none, some X, none, some X, some O, some O, none, none, some X] O X).2)] X = (some 0, 1)
  rw [mmv_2099, mmv_2103, mmv_2107, mmv_2110, mmv_2122]
  rfl

theorem mmv_2133 : minimaxL 3 [none, some X, some X, some X, some O, none, some O, some O, none] X O = (some 0, 1) := rfl

theorem mmv_2134 : minimaxL 3 [none, some X, some X, some X, some O, none, some O, none, some O] X O = (some 0, 1) := rfl

theorem mmv_2132 : minimaxL 4 [none, some X, some X, some X, some O, none, some O, none, none] O X = (some 0, 0) := by
  rw [minimaxL_succ 3 [none, some X, some X, some X, some O, none, some O, none, none] O X [0, 5, 7, 8] rfl rfl (List.cons_ne_nil _ _)]
  show pickBest [(0, (minimaxL 3 [some O, some X, some X, some X, some O, none, some O, none, none] X O).2), (5, (minimaxL 3 [none, some X, some X, some X, some O, some O, some O, none, none] X O).2), (7, (minimaxL 3 [none, some X, some X, some X, some O, none, some O, some O, none] X O).2), (8, (minimaxL 3 [none, some X, some X, some X, some O, none, some O, none, some O] X O).2)] O = (some 0, 0)
  rw [mmv_1323, mmv_2104, mmv_2133, mmv_2134]
  rfl

theorem mmv_2135 : minimaxL 4 [none, some X, none, some X, some O, some X, some O, none, none] O X = (some 2, -1) := rfl

theorem mmv_2136 : minimaxL 4 [none, some X, none, some X, some O, none, some O, some X, none] O X = (some 2, -1) := rfl

theorem mmv_2137 : minimaxL 4 [none, some X, none, some X, some O, none, some O, none, some X] O X = (some 2, -1) := rfl

theorem mmv_2131 : minimaxL 5 [none, some X, none, some X, some O, none, some O, none, none] X O = (some 2, 0) := by
  rw [minimaxL_succ 4 [none, some X, none, some X, some O, none, some O, none, none] X O [0, 2, 5, 7, 8] rfl rfl (List.cons_ne_nil _ _)]
  show pickBest [(0, (minimaxL 4 [some X, some X, none, some X, some O, none, some O, none, none] O X).2), (2, (minimaxL 4 [none, some X, some X, some X, some O, none, some O, none, none] O X).2), (5, (minimaxL 4 [none, some X, none, some X, some O, some X, some O, none, none] O X).2), (7, (minimaxL 4 [none, some X, none, some X, some O, none, some O, some X, none] O X).2), (8, (minimaxL 4 [none, some X, none, some X, some O, none, some O, none, some X] O X).2)] X = (some 2, 0)
  rw [mmv_0960, mmv_2132, mmv_2135, mmv_2136, mmv_2137]
  rfl

theorem mmv_2140 : minimaxL 3 [some X, some X, none, some X, some O, none, some O, some O, none] X O = (some 2, 1) := rfl

theorem mmv_2141 : minimaxL 3 [some X, some X, none, some X, some O, none, none, some O, some O] X O = (some 2, 1) := rfl

theorem mmv_2139 : minimaxL 4 [some X, some X, none, some X, some O, none, none, some O, none] O X = (some 2, 1) := by
  rw [minimaxL_succ 3 [some X, some X, none, some X, some O, none, none, some O, none] O X [2, 5, 6, 8] rfl rfl (List.cons_ne_nil _ _)]
  show pickBest [(2, (minimaxL 3 [some X, some X, some O, some X, some O, none, none, some O, none] X O).2), (5, (minimaxL 3 [some X, some X, none, some X, some O, some O, none, some O, none] X O).2), (6, (minimaxL 3 [some X, some X, none, some X, some O, none, some O, some O, none] X O).2), (8, (minimaxL 3 [some X, some X, none, some X, some O, none, none, some O, some O] X O).2)] O = (some 2, 1)
  rw [mmv_0554, mmv_2101, mmv_2140, mmv_2141]
  rfl

theorem mmv_2143 : minimaxL 3 [none, some X, some X, some X, some O, none, none, some O, some O] X O = (some 0, 1) := rfl

theorem mmv_2142 : minimaxL 4 [none, some X, some X, some X, some O, none, none, some O, none] O X = (some 0, 0) := by
  rw [minimaxL_succ 3 [none, some X, some X, some X, some O, none, none, some O, none] O X [0, 5, 6, 8] rfl rfl (List.cons_ne_nil _ _)]
  show pickBest [(0, (minimaxL 3 [some O, some X, some X, some X, some O, none, none, some O, none] X O).2), (5, (minimaxL 3 [none, some X, some X, some X, some O, some O, none, some O, none] X O).2), (6, (minimaxL 3 [none, some X, some X, some X, some O, none, some O, some O, none] X O).2), (8, (minimaxL 3 [none, some X, some X, some X, some O, none, none, some O, some O] X O).2)] O = (some 0, 0)
  rw [mmv_1342, mmv_2105, mmv_2133, mmv_2143]
  rfl

theorem mmv_2146 : minimaxL 2 [some X, some X, none, some X, some O, some X, some O, some O, none] O X = (some 2, -1) := rfl

theorem mmv_2147 : minimaxL 2 [none, some X, some X, some X, some O, some X, some O, some O, none] O X = (some 8, -1) := rfl

theorem mmv_2148 : minimaxL 2 [none, some X, none, some X, some O, some X, some O, some O, some X] O X = (some 2, -1) := rfl

theorem mmv_2145 : minimaxL 3 [none, some X, none, some X, some O, some X, some O, some O, none] X O = (some 8, -1) := by
  rw [minimaxL_succ 2 [none, some X, none, some X, some O, some X, some O, some O, none] X O [0, 2, 8] rfl rfl (List.cons_ne_nil _ _)]
  show pickBest [(0, (minimaxL 2 [some X, some X, none, some X, some O, some X, some O, some O, none] O X).2), (2, (minimaxL 2 [none, some X, some X, some X, some O, some X, some O, some O, none] O X).2), (8, (minimaxL 2 [none, some X, none, some X, some O, some X, some O, some O, some X] O X).2)] X = (some 8, -1)
  rw [mmv_2146, mmv_2147, mmv_2148]
  rfl

theorem mmv_2150 : minimaxL 2 [some X, some X, none, some X, some O, some X, none, some O, some O] O X = (some 6, -1) := rfl

theorem mmv_2151 : minimaxL 2 [none, some X, some X, some X, some O, some X, none, some O, some O] O X = (some 0, -1) := rfl

theorem mmv_2152 : minimaxL 2 [none, some X, none, some X, some O, some X, some X, some O, some O] O X = (some 0, -1) := rfl

theorem mmv_2149 : minimaxL 3 [none, some X, none, some X, some O, some X, none, some O, some O] X O = (some 6, -1) := by
  rw [minimaxL_succ 2 [none, some X, none, some X, some O, some X, none, some O, some O] X O [0, 2, 6] rfl rfl (List.cons_ne_nil _ _)]
  show pickBest [(0, (minimaxL 2 [some X, some X, none, some X, some O, some X, none, some O, some O] O X).2), (2, (minimaxL 2 [none, some X, some X, some X, some O, some X, none, some O, some O] O X).2), (6, (minimaxL 2 [none, some X, none, some X, some O, some X, some X, some O, some O] O X).2)] X = (some 6, -1)
  rw [mmv_2150, mmv_2151, mmv_2152]
  rfl

theorem mmv_2144 : minimaxL 4 [none, some X, none, some X, some O, some X, none, some O, none] O X = (some 6, -1) := by
  rw [minimaxL_succ 3 [none, some X, none, some X, some O, some X, none, some O, none] O X [0, 2, 6, 8] rfl rfl (List.cons_ne_nil _ _)]
  show pickBest [(0, (minimaxL 3 [some O, some X, none, some X, some O, some X, none, some O, none] X O).2), (2, (minimaxL 3 [none, some X, some O, some X, some O, some X, none, some O, none] X O).2), (6, (minimaxL 3 [none, some X, none, some X, some O, some X, some O, some O, none] X O).2), (8, (minimaxL 3 [none, some X, none, some X, some O, some X, none, some O, some O] X O).2)] O = (some 6, -1)
  rw [mmv_1508, mmv_1777, mmv_2145, mmv_2149]
  rfl

theorem mmv_2154 : minimaxL 3 [none, some X, none, some X, some O, none, some X, some O, some O] X O = (some 0, 1) := rfl

theorem mmv_2153 : minimaxL 4 [none, some X, none, some X, some O, none, some X, some O, none] O X = (some 0, 0) := by
  rw [minimaxL_succ 3 [none, some X, none, some X, some O, none, some X, some O, none] O X [0, 2, 5, 8] rfl rfl (List.cons_ne_nil _ _)]
  show pickBest [(0, (minimaxL 3 [some O, some X, none, some X, some O, none, some X, some O, none] X O).2), (2, (minimaxL 3 [none, some X, some O, some X, some O, none, some X, some O, none] X O).2), (5, (minimaxL 3 [none, some X, none, some X, some O, some O, some X, some O, none] X O).2), (8, (minimaxL 3 [none, some X, none, some X, some O, none, some X, some O, some O] X O).2)] O = (some 0, 0)
  rw [mmv_1512, mmv_1739, mmv_2108, mmv_2154]
  rfl

theorem mmv_2157 : minimaxL 2 [none, some X, some X, some X, some O, none, some O, some O, some X] O X = (some 0, 1) := by
  rw [minimaxL_succ 1 [none, some X, some X, some X, some O, none, some O, some O, some X] O X [0, 5] rfl rfl (List.cons_ne_nil _ _)]
  show pickBest [(0, (minimaxL 1 [some O, some X, some X, some X, some O, none, some O, some O, some X] X O).2), (5, (minimaxL 1 [none, some X, some X, some X, some O, some O, some O, some O, some X] X O).2)] O = (some 0, 1)
  rw [mmv_1327, mmv_2125]
  rfl

theorem mmv_2156 : minimaxL 3 [none, some X, none, some X, some O, none, some O, some O, some X] X O = (some 2, 1) := by
  rw [minimaxL_succ 2 [none, some X, none, some X, some O, none, some O, some O, some X] X O [0, 2, 5] rfl rfl (List.cons_ne_nil _ _)]
  show pickBest [(0, (minimaxL 2 [some X, some X, none, some X, some O, none, some O, some O, some X] O X).2), (2, (minimaxL 2 [none, some X, some X, some X, some O, none, some O, some O, some X] O X).2), (5, (minimaxL 2 [none, some X, none, some X, some O, some X, some O, some O, some X] O X).2)] X = (some 2, 1)
  rw [mmv_1162, mmv_2157, mmv_2148]
  rfl

theorem mmv_2155 : minimaxL 4 [none, some X, none, some X, some O, none, none, some O, some X] O X = (some 0, 0) := by
  rw [minimaxL_succ 3 [none, some X, none, some X, some O, none, none, some O, some X] O X [0, 2, 5, 6] rfl rfl (List.cons_ne_nil _ _)]
  show pickBest [(0, (minimaxL 3 [some O, some X, none, some X, some O, none, none, some O, some X] X O).2), (2, (minimaxL 3 [none, some X, some O, some X, some O, none, none, some O, some X] X O).2), (5, (minimaxL 3 [none, some X, none, some X, some O, some O, none, some O, some X] X O).2), (6, (minimaxL 3 [none, some X, none, some X, some O, none, some O, some O, some X] X O).2)] O = (some 0, 0)
  rw [mmv_1458, mmv_1787, mmv_2126, mmv_2156]
  rfl

theorem mmv_2138 : minimaxL 5 [none, some X, none, some X, some O, none, none, some O, none] X O = (some 0, 1) := by
  rw [minimaxL_succ 4 [none, some X, none, some X, some O, none, none, some O, none] X O [0, 2, 5, 6, 8] rfl rfl (List.cons_ne_nil _ _)]
  show pickBest [(0, (minimaxL 4 [some X, some X, none, some X, some O, none, none, some O, none] O X).2), (2, (minimaxL 4 [none, some X, some X, some X, some O, none, none, some O, none] O X).2), (5, (minimaxL 4 [none, some X, none, some X, some O, some X, none, some O, none] O X).2), (6, (minimaxL 4 [none, some X, none, some X, some O, none, some X, some O, none] O X).2), (8, (minimaxL 4 [none, some X, none, some X, some O, none, none, some O, some X] O X).2)] X = (some 0, 1)
  rw [mmv_2139, mmv_2142, mmv_2144, mmv_2153, mmv_2155]
  rfl

theorem mmv_2160 : minimaxL 3 [some X, some X, some O, some X, some O, none, none, none, some O] X O = (some 6, 1) := rfl

theorem mmv_2161 : minimaxL 3 [some X, some X, none, some X, some O, none, some O, none, some O] X O = (some 2, 1) := rfl

theorem mmv_2159 : minimaxL 4 [some X, some X, none, some X, some O, none, none, none, some O] O X = (some 2, 1) := by
  rw [minimaxL_succ 3 [some X, some X, none, some X, some O, none, none, none, some O] O X [2, 5, 6, 7] rfl rfl (List.cons_ne_nil _ _)]
  show pickBest [(2, (minimaxL 3 [some X, some X, some O, some X, some O, none, none, none, some O] X O).2), (5, (minimaxL 3 [some X, some X, none, some X, some O, some O, none, none, some O] X O).2), (6, (minimaxL 3 [some X, some X, none, some X, some O, none, some O, none, some O] X O).2), (7, (minimaxL 3 [some X, some X, none, some X, some O, none, none, some O, some O] X O).2)] O = (some 2, 1)
  rw [mmv_2160, mmv_2102, mmv_2161, mmv_2141]
  rfl

theorem mmv_2162 : minimaxL 4 [none, some X, some X, some X, some O, none, none, none, some O] O X = (some 0, -1) := rfl

theorem mmv_2163 : minimaxL 4 [none, some X, none, some X, some O, some X, none, none, some O] O X = (some 0, -1) := rfl

theorem mmv_2164 : minimaxL 4 [none, some X, none, some X, some O, none, some X, none, some O] O X = (some 0, -1) := rfl

theorem mmv_2165 : minimaxL 4 [none, some X, none, some X, some O, none, none, some X, some O] O X = (some 0, -1) := rfl

theorem mmv_2158 : minimaxL 5 [none, some X, none, some X, some O, none, none, none, some O] X O = (some 0, 1) := by
  rw [minimaxL_succ 4 [none, some X, none, some X, some O, none, none, none, some O] X O [0, 2, 5, 6, 7] rfl rfl (List.cons_ne_nil _ _)]
  show pickBest [(0, (minimaxL 4 [some X, some X, none, some X, some O, none, none, none, some O] O X).2), (2, (minimaxL 4 [none, some X, some X, some X, some O, none, none, none, some O] O X).2), (5, (minimaxL 4 [none, some X, none, some X, some O, some X, none, none, some O] O X).2), (6, (minimaxL 4 [none, some X, none, some X, some O, none, some X, none, some O] O X).2), (7, (minimaxL 4 [none, some X, none, some X, some O, none, none, some X, some O] O X).2)] X = (some 0, 1)
  rw [mmv_2159, mmv_2162, mmv_2163, mmv_2164, mmv_2165]
  rfl

theorem mmv_2097 : minimaxL 6 [none, some X, none, some X, some O, none, none, none, none] O X = (some 0, 0) := by
  rw [minimaxL_succ 5 [none, some X, none, some X, some O, none, none, none, none] O X [0, 2, 5, 6, 7, 8] rfl rfl (List.cons_ne_nil _ _)]
  show pickBest [(0, (minimaxL 5 [some O, some X, none, some X, some O, none, none, none, none] X O).2), (2, (minimaxL 5 [none, some X, some O, some X, some O, none, none, none, none] X O).2), (5, (minimaxL 5 [none, some X, none, some X, some O, some O, none, none, none] X O).2), (6, (minimaxL 5 [none, some X, none, some X, some O, none, some O, none, none] X O).2), (7, (minimaxL 5 [none, some X, none, some X, some O, none, none, some O, none] X O).2), (8, (minimaxL 5 [none, some X, none, some X, some O, none, none, none, some O] X O).2)] O = (some 0, 0)
  rw [mmv_1445, mmv_1735, mmv_2098, mmv_2131, mmv_2138, mmv_2158]
  rfl

theorem mmv_2169 : minimaxL 3 [some O, some X, some X, none, some O, some X, some O, none, none] X O = (some 8, 1) := rfl

theorem mmv_2170 : minimaxL 3 [none, some X, some X, none, some O, some X, some O, some O, none] X O = (some 0, 1) := rfl

theorem mmv_2171 : minimaxL 3 [none, some X, some X, none, some O, some X, some O, none, some O] X O = (some 0, 1) := rfl

theorem mmv_2168 : minimaxL 4 [none, some X, some X, none, some O, some X, some O, none, none] O X = (some 0, 1) := by
  rw [minimaxL_succ 3 [none, some X, some X, none, some O, some X, some O, none, none] O X [0, 3, 7, 8] rfl rfl (List.cons_ne_nil _ _)]
  show pickBest [(0, (minimaxL 3 [some O, some X, some X, none, some O, some X, some O, none, none] X O).2), (3, (minimaxL 3 [none, some X, some X, some O, some O, some X, some O, none, none] X O).2), (7, (minimaxL 3 [none, some X, some X, none, some O, some X, some O, some O, none] X O).2), (8, (minimaxL 3 [none, some X, some X, none, some O, some X, some O, none, some O] X O).2)] O = (some 0, 1)
  rw [mmv_2169, mmv_1979, mmv_2170, mmv_2171]
  rfl

theorem mmv_2172 : minimaxL 4 [none, some X, none, none, some O, some X, some O, some X, none] O X = (some 2, -1) := rfl

theorem mmv_2173 : minimaxL 4 [none, some X, none, none, some O, some X, some O, none, some X] O X = (some 2, -1) := rfl

theorem mmv_2167 : minimaxL 5 [none, some X, none, none, some O, some X, some O, none, none] X O = (some 2, 1) := by
  rw [minimaxL_succ 4 [none, some X, none, none, some O, some X, some O, none, none] X O [0, 2, 3, 7, 8] rfl rfl (List.cons_ne_nil _ _)]
  show pickBest [(0, (minimaxL 4 [some X, some X, none, none, some O, some X, some O, none, none] O X).2), (2, (minimaxL 4 [none, some X, some X, none, some O, some X, some O, none, none] O X).2), (3, (minimaxL 4 [none, some X, none, some X, some O, some X, some O, none, none] O X).2), (7, (minimaxL 4 [none, some X, none, none, some O, some X, some O, some X, none] O X).2), (8, (minimaxL 4 [none, some X, none, none, some O, some X, some O, none, some X] O X).2)] X = (some 2, 1)
  rw [mmv_0972, mmv_2168, mmv_2135, mmv_2172, mmv_2173]
  rfl

theorem mmv_2176 : minimaxL 3 [none, some X, some X, none, some O, some X, none, some O, some O] X O = (some 0, 1) := rfl

theorem mmv_2175 : minimaxL 4 [none, some X, some X, none, some O, some X, none, some O, none] O X = (some 0, 1) := by
  rw [minimaxL_succ 3 [none, some X, some X, none, some O, some X, none, some O, none] O X [0, 3, 6, 8] rfl rfl (List.cons_ne_nil _ _)]
  show pickBest [(0, (minimaxL 3 [some O, some X, some X, none, some O, some X, none, some O, none] X O).2), (3, (minimaxL 3 [none, some X, some X, some O, some O, some X, none, some O, none] X O).2), (6, (minimaxL 3 [none, some X, some X, none, some O, some X, some O, some O, none] X O).2), (8, (minimaxL 3 [none, some X, some X, none, some O, some X, none, some O, some O] X O).2)] O = (some 0, 1)
  rw [mmv_1358, mmv_1980, mmv_2170, mmv_2176]
  rfl

theorem mmv_2179 : minimaxL 2 [some X, some X, none, none, some O, some X, some X, some O, some O] O X = (some 2, 1) := by
  rw [minimaxL_succ 1 [some X, some X, none, none, some O, some X, some X, some O, some O] O X [2, 3] rfl rfl (List.cons_ne_nil _ _)]
  show pickBest [(2, (minimaxL 1 [some X, some X, some O, none, some O, some X, some X, some O, some O] X O).2), (3, (minimaxL 1 [some X, some X, none, some O, some O, some X, some X, some O, some O] X O).2)] O = (some 2, 1)
  rw [mmv_0571, mmv_0811]
  rfl

theorem mmv_2180 : minimaxL 2 [none, some X, some X, none, some O, some X, some X, some O, some O] O X = (some 0, -1) := rfl

theorem mmv_2178 : minimaxL 3 [none, some X, none, none, some O, some X, some X, some O, some O] X O = (some 0, 1) := by
  rw [minimaxL_succ 2 [none, some X, none, none, some O, some X, some X, some O, some O] X O [0, 2, 3] rfl rfl (List.cons_ne_nil _ _)]
  show pickBest [(0, (minimaxL 2 [some X, some X, none, none, some O, some X, some X, some O, some O] O X).2), (2, (minimaxL 2 [none, some X, some X, none, some O, some X, some X, some O, some O] O X).2), (3, (minimaxL 2 [none, some X, none, some X, some O, some X, some X, some O, some O] O X).2)] X = (some 0, 1)
  rw [mmv_2179, mmv_2180, mmv_2152]
  rfl

theorem mmv_2177 : minimaxL 4 [none, some X, none, none, some O, some X, some X, some O, none] O X = (some 0, 0) := by
  rw [minimaxL_succ 3 [none, some X, none, none, some O, some X, some X, some O, none] O X [0, 2, 3, 8] rfl rfl (List.cons_ne_nil _ _)]
  show pickBest [(0, (minimaxL 3 [some O, some X, none, none, some O, some X, some X, some O, none] X O).2), (2, (minimaxL 3 [none, some X, some O, none, some O, some X, some X, some O, none] X O).2), (3, (minimaxL 3 [none, some X, none, some O, some O, some X, some X, some O, none] X O).2), (8, (minimaxL 3 [none, some X, none, none, some O, some X, some X, some O, some O] X O).2)] O = (some 0, 0)
  rw [mmv_1634, mmv_1858, mmv_1983, mmv_2178]
  rfl

theorem mmv_2182 : minimaxL 3 [none, some X, none, none, some O, some X, some O, some O, some X] X O = (some 2, 1) := rfl

theorem mmv_2181 : minimaxL 4 [none, some X, none, none, some O, some X, none, some O, some X] O X = (some 2, 0) := by
  rw [minimaxL_succ 3 [none, some X, none, none, some O, some X, none, some O, some X] O X [0, 2, 3, 6] rfl rfl (List.cons_ne_nil _ _)]
  show pickBest [(0, (minimaxL 3 [some O, some X, none, none, some O, some X, none, some O, some X] X O).2), (2, (minimaxL 3 [none, some X, some O, none, some O, some X, none, some O, some X] X O).2), (3, (minimaxL 3 [none, some X, none, some O, some O, some X, none, some O, some X] X O).2), (6, (minimaxL 3 [none, some X, none, none, some O, some X, some O, some O, some X] X O).2)] O = (some 2, 0)
  rw [mmv_1627, mmv_1874, mmv_2001, mmv_2182]
  rfl

theorem mmv_2174 : minimaxL 5 [none, some X, none, none, some O, some X, none, some O, none] X O = (some 2, 1) := by
  rw [minimaxL_succ 4 [none, some X, none, none, some O, some X, none, some O, none] X O [0, 2, 3, 6, 8] rfl rfl (List.cons_ne_nil _ _)]
  show pickBest [(0, (minimaxL 4 [some X, some X, none, none, some O, some X, none, some O, none] O X).2), (2, (minimaxL 4 [none, some X, some X, none, some O, some X, none, some O, none] O X).2), (3, (minimaxL 4 [none, some X, none, some X, some O, some X, none, some O, none] O X).2), (6, (minimaxL 4 [none, some X, none, none, some O, some X, some X, some O, none] O X).2), (8, (minimaxL 4 [none, some X, none, none, some O, some X, none, some O, some X] O X).2)] X = (some 2, 1)
  rw [mmv_0979, mmv_2175, mmv_2144, mmv_2177, mmv_2181]
  rfl

theorem mmv_2184 : minimaxL 4 [none, some X, some X, none, some O, some X, none, none, some O] O X = (some 0, -1) := rfl

theorem mmv_2185 : minimaxL 4 [none, some X, none, none, some O, some X, some X, none, some O] O X = (some 0, -1) := rfl

theorem mmv_2186 : minimaxL 4 [none, some X, none, none, some O, some X, none, some X, some O] O X = (some 0, -1) := rfl

theorem mmv_2183 : minimaxL 5 [none, some X, none, none, some O, some X, none, none, some O] X O = (some 0, 0) := by
  rw [minimaxL_succ 4 [none, some X, none, none, some O, some X, none, none, some O] X O [0, 2, 3, 6, 7] rfl rfl (List.cons_ne_nil _ _)]
  show pickBest [(0, (minimaxL 4 [some X, some X, none, none, some O, some X, none, none, some O] O X).2), (2, (minimaxL 4 [none, some X, some X, none, some O, some X, none, none, some O] O X).2), (3, (minimaxL 4 [none, some X, none, some X, some O, some X, none, none, some O] O X).2), (6, (minimaxL 4 [none, some X, none, none, some O, some X, some X, none, some O] O X).2), (7, (minimaxL 4 [none, some X, none, none, some O, some X, none, some X, some O] O X).2)] X = (some 0, 0)
  rw [mmv_0987, mmv_2184, mmv_2163, mmv_2185, mmv_2186]
  rfl

theorem mmv_2166 : minimaxL 6 [none, some X, none, none, some O, some X, none, none, none] O X = (some 0, 0) := by
  rw [minimaxL_succ 5 [none, some X, none, none, some O, some X, none, none, none] O X [0, 2, 3, 6, 7, 8] rfl rfl (List.cons_ne_nil _ _)]
  show pickBest [(0, (minimaxL 5 [some O, some X, none, none, some O, some X, none, none, none] X O).2), (2, (minimaxL 5 [none, some X, some O, none, some O, some X, none, none, none] X O).2), (3, (minimaxL 5 [none, some X, none, some O, some O, some X, none, none, none] X O).2), (6, (minimaxL 5 [none, some X, none, none, some O, some X, some O, none, none] X O).2), (7, (minimaxL 5 [none, some X, none, none, some O, some X, none, some O, none] X O).2), (8, (minimaxL 5 [none, some X, none, none, some O, some X, none, none, some O] X O).2)] O = (some 0, 0)
  rw [mmv_1621, mmv_1856, mmv_1976, mmv_2167, mmv_2174, mmv_2183]
  rfl

theorem mmv_2189 : minimaxL 4 [some X, some X, none, none, some O, some O, some X, none, none] O X = (some 3, -1) := rfl

theorem mmv_2190 : minimaxL 4 [none, some X, some X, none, some O, some O, some X, none, none] O X = (some 3, -1) := rfl

theorem mmv_2191 : minimaxL 4 [none, some X, none, none, some O, some O, some X, some X, none] O X = (some 3, -1) := rfl

theorem mmv_2192 : minimaxL 4 [none, some X, none, none, some O, some O, some X, none, some X] O X = (some 3, -1) := rfl

theorem mmv_2188 : minimaxL 5 [none, some X, none, none, some O, some O, some X, none, none] X O = (some 3, 0) := by
  rw [minimaxL_succ 4 [none, some X, none, none, some O, some O, some X, none, none] X O [0, 2, 3, 7, 8] rfl rfl (List.cons_ne_nil _ _)]
  show pickBest [(0, (minimaxL 4 [some X, some X, none, none, some O, some O, some X, none, none] O X).2), (2, (minimaxL 4 [none, some X, some X, none, some O, some O, some X, none, none] O X).2), (3, (minimaxL 4 [none, some X, none, some X, some O, some O, some X, none, none] O X).2), (7, (minimaxL 4 [none, some X, none, none, some O, some O, some X, some X, none] O X).2), (8, (minimaxL 4 [none, some X, none, none, some O, some O, some X, none, some X] O X).2)] X = (some 3, 0)
  rw [mmv_2189, mmv_2190, mmv_2107, mmv_2191, mmv_2192]
  rfl

theorem mmv_2195 : minimaxL 3 [some X, some X, none, none, some O, some O, some X, some O, none] X O = (some 2, 1) := rfl

theorem mmv_2196 : minimaxL 3 [some X, some X, none, none, some O, none, some X, some O, some O] X O = (some 2, 1) := rfl

theorem mmv_2194 : minimaxL 4 [some X, some X, none, none, some O, none, some X, some O, none] O X = (some 2, 1) := by
  rw [minimaxL_succ 3 [some X, some X, none, none, some O, none, some X, some O, none] O X [2, 3, 5, 8] rfl rfl (List.cons_ne_nil _ _)]
  show pickBest [(2, (minimaxL 3 [some X, some X, some O, none, some O, none, some X, some O, none] X O).2), (3, (minimaxL 3 [some X, some X, none, some O, some O, none, some X, some O, none] X O).2), (5, (minimaxL 3 [some X, some X, none, none, some O, some O, some X, some O, none] X O).2), (8, (minimaxL 3 [some X, some X, none, none, some O, none, some X, some O, some O] X O).2)] O = (some 2, 1)
  rw [mmv_0527, mmv_0878, mmv_2195, mmv_2196]
  rfl

theorem mmv_2198 : minimaxL 3 [none, some X, some X, none, some O, some O, some X, some O, none] X O = (some 0, 1) := rfl

theorem mmv_2199 : minimaxL 3 [none, some X, some X, none, some O, none, some X, some O, some O] X O = (some 0, 1) := rfl

theorem mmv_2197 : minimaxL 4 [none, some X, some X, none, some O, none, some X, some O, none] O X = (some 0, 0) := by
  rw [minimaxL_succ 3 [none, some X, some X, none, some O, none, some X, some O, none] O X [0, 3, 5, 8] rfl rfl (List.cons_ne_nil _ _)]
  show pickBest [(0, (minimaxL 3 [some O, some X, some X, none, some O, none, some X, some O, none] X O).2), (3, (minimaxL 3 [none, some X, some X, some O, some O, none, some X, some O, none] X O).2), (5, (minimaxL 3 [none, some X, some X, none, some O, some O, some X, some O, none] X O).2), (8, (minimaxL 3 [none, some X, some X, none, some O, none, some X, some O, some O] X O).2)] O = (some 0, 0)
  rw [mmv_1364, mmv_2041, mmv_2198, mmv_2199]
  rfl

theorem mmv_2202 : minimaxL 2 [some X, some X, none, none, some O, some O, some X, some O, some X] O X = (some 3, -1) := rfl

theorem mmv_2203 : minimaxL 2 [none, some X, some X, none, some O, some O, some X, some O, some X] O X = (some 3, -1) := rfl

theorem mmv_2201 : minimaxL 3 [none, some X, none, none, some O, some O, some X, some O, some X] X O = (some 3, 0) := by
  rw [minimaxL_succ 2 [none, some X, none, none, some O, some O, some X, some O, some X] X O [0, 2, 3] rfl rfl (List.cons_ne_nil _ _)]
  show pickBest [(0, (minimaxL 2 [some X, some X, none, none, some O, some O, some X, some O, some X] O X).2), (2, (minimaxL 2 [none, some X, some X, none, some O, some O, some X, some O, some X] O X).2), (3, (minimaxL 2 [none, some X, none, some X, some O, some O, some X, some O, some X] O X).2)] X = (some 3, 0)
  rw [mmv_2202, mmv_2203, mmv_2130]
  rfl

theorem mmv_2200 : minimaxL 4 [none, some X, none, none, some O, none, some X, some O, some X] O X = (some 0, 0) := by
  rw [minimaxL_succ 3 [none, some X, none, none, some O, none, some X, some O, some X] O X [0, 2, 3, 5] rfl rfl (List.cons_ne_nil _ _)]
  show pickBest [(0, (minimaxL 3 [some O, some X, none, none, some O, none, some X, some O, some X] X O).2), (2, (minimaxL 3 [none, some X, some O, none, some O, none, some X, some O, some X] X O).2), (3, (minimaxL 3 [none, some X, none, some O, some O, none, some X, some O, some X] X O).2), (5, (minimaxL 3 [none, some X, none, none, some O, some O, some X, some O, some X] X O).2)] O = (some 0, 0)
  rw [mmv_1680, mmv_1903, mmv_2045, mmv_2201]
  rfl

theorem mmv_2193 : minimaxL 5 [none, some X, none, none, some O, none, some X, some O, none] X O = (some 0, 1) := by
  rw [minimaxL_succ 4 [none, some X, none, none, some O, none, some X, some O, none] X O [0, 2, 3, 5, 8] rfl rfl (List.cons_ne_nil _ _)]
  show pickBest [(0, (minimaxL 4 [some X, some X, none, none, some O, none, some X, some O, none] O X).2), (2, (minimaxL 4 [none, some X, some X, none, some O, none, some X, some O, none] O X).2), (3, (minimaxL 4 [none, some X, none, some X, some O, none, some X, some O, none] O X).2), (5, (minimaxL 4 [none, some X, none, none, some O, some X, some X, some O, none] O X).2), (8, (minimaxL 4 [none, some X, none, none, some O, none, some X, some O, some X] O X).2)] X = (some 0, 1)
  rw [mmv_2194, mmv_2197, mmv_2153, mmv_2177, mmv_2200]
  rfl

theorem mmv_2206 : minimaxL 3 [some X, some X, none, none, some O, some O, some X, none, some O] X O = (some 2, 1) := rfl

theorem mmv_2205 : minimaxL 4 [some X, some X, none, none, some O, none, some X, none, some O] O X = (some 2, 1) := by
  rw [minimaxL_succ 3 [some X, some X, none, none, some O, none, some X, none, some O] O X [2, 3, 5, 7] rfl rfl (List.cons_ne_nil _ _)]
  show pickBest [(2, (minimaxL 3 [some X, some X, some O, none, some O, none, some X, none, some O] X O).2), (3, (minimaxL 3 [some X, some X, none, some O, some O, none, some X, none, some O] X O).2), (5, (minimaxL 3 [some X, some X, none, none, some O, some O, some X, none, some O] X O).2), (7, (minimaxL 3 [some X, some X, none, none, some O, none, some X, some O, some O] X O).2)] O = (some 2, 1)
  rw [mmv_0528, mmv_0893, mmv_2206, mmv_2196]
  rfl

theorem mmv_2207 : minimaxL 4 [none, some X, some X, none, some O, none, some X, none, some O] O X = (some 0, -1) := rfl

theorem mmv_2208 : minimaxL 4 [none, some X, none, none, some O, none, some X, some X, some O] O X = (some 0, -1) := rfl

theorem mmv_2204 : minimaxL 5 [none, some X, none, none, some O, none, some X, none, some O] X O = (some 0, 1) := by
  rw [minimaxL_succ 4 [none, some X, none, none, some O, none, some X, none, some O] X O [0, 2, 3, 5, 7] rfl rfl (List.cons_ne_nil _ _)]
  show pickBest [(0, (minimaxL 4 [some X, some X, none, none, some O, none, some X, none, some O] O X).2), (2, (minimaxL 4 [none, some X, some X, none, some O, none, some X, none, some O] O X).2), (3, (minimaxL 4 [none, some X, none, some X, some O, none, some X, none, some O] O X).2), (5, (minimaxL 4 [none, some X, none, none, some O, some X, some X, none, some O] O X).2), (7, (minimaxL 4 [none, some X, none, none, some O, none, some X, some X, some O] O X).2)] X = (some 0, 1)
  rw [mmv_2205, mmv_2207, mmv_2164, mmv_2185, mmv_2208]
  rfl

theorem mmv_2187 : minimaxL 6 [none, some X, none, none, some O, none, some X, none, none] O X = (some 0, 0) := by
  rw [minimaxL_succ 5 [none, some X, none, none, some O, none, some X, none, none] O X [0, 2, 3, 5, 7, 8] rfl rfl (List.cons_ne_nil _ _)]
  show pickBest [(0, (minimaxL 5 [some O, some X, none, none, some O, none, some X, none, none] X O).2), (2, (minimaxL 5 [none, some X, some O, none, some O, none, some X, none, none] X O).2), (3, (minimaxL 5 [none, some X, none, some O, some O, none, some X, none, none] X O).2), (5, (minimaxL 5 [none, some X, none, none, some O, some O, some X, none, none] X O).2), (7, (minimaxL 5 [none, some X, none, none, some O, none, some X, some O, none] X O).2), (8, (minimaxL 5 [none, some X, none, none, some O, none, some X, none, some O] X O).2)] O = (some 0, 0)
  rw [mmv_1676, mmv_1896, mmv_2029, mmv_2188, mmv_2193, mmv_2204]
  rfl

theorem mmv_2211 : minimaxL 4 [none, some X, some X, none, some O, some O, none, some X, none] O X = (some 3, -1) := rfl

theorem mmv_2212 : minimaxL 4 [none, some X, none, none, some O, some O, none, some X, some X] O X = (some 3, -1) := rfl

theorem mmv_2210 : minimaxL 5 [none, some X, none, none, some O, some O, none, some X, none] X O = (some 8, -1) := by
  rw [minimaxL_succ 4 [none, some X, none, none, some O, some O, none, some X, none] X O [0, 2, 3, 6, 8] rfl rfl (List.cons_ne_nil _ _)]
  show pickBest [(0, (minimaxL 4 [some X, some X, none, none, some O, some O, none, some X, none] O X).2), (2, (minimaxL 4 [none, some X, some X, none, some O, some O, none, some X, none] O X).2), (3, (minimaxL 4 [none, some X, none, some X, some O, some O, none, some X, none] O X).2), (6, (minimaxL 4 [none, some X, none, none, some O, some O, some X, some X, none] O X).2), (8, (minimaxL 4 [none, some X, none, none, some O, some O, none, some X, some X] O X).2)] X = (some 8, -1)
  rw [mmv_1009, mmv_2211, mmv_2110, mmv_2191, mmv_2212]
  rfl

theorem mmv_2216 : minimaxL 2 [some O, some X, some X, none, some O, some X, some O, some X, none] O X = (some 8, -1) := rfl

theorem mmv_2215 : minimaxL 3 [some O, some X, some X, none, some O, none, some O, some X, none] X O = (some 8, -1) := by
  rw [minimaxL_succ 2 [some O, some X, some X, none, some O, none, some O, some X, none] X O [3, 5, 8] rfl rfl (List.cons_ne_nil _ _)]
  show pickBest [(3, (minimaxL 2 [some O, some X, some X, some X, some O, none, some O, some X, none] O X).2), (5, (minimaxL 2 [some O, some X, some X, none, some O, some X, some O, some X, none] O X).2), (8, (minimaxL 2 [some O, some X, some X, none, some O, none, some O, some X, some X] O X).2)] X = (some 8, -1)
  rw [mmv_1325, mmv_2216, mmv_1703]
  rfl

theorem mmv_2217 : minimaxL 3 [none, some X, some X, some O, some O, none, some O, some X, none] X O = (some 0, 1) := rfl

theorem mmv_2218 : minimaxL 3 [none, some X, some X, none, some O, some O, some O, some X, none] X O = (some 0, 1) := rfl

theorem mmv_2219 : minimaxL 3 [none, some X, some X, none, some O, none, some O, some X, some O] X O = (some 0, 1) := rfl

theorem mmv_2214 : minimaxL 4 [none, some X, some X, none, some O, none, some O, some X, none] O X = (some 0, -1) := by
  rw [minimaxL_succ 3 [none, some X, some X, none, some O, none, some O, some X, none] O X [0, 3, 5, 8] rfl rfl (List.cons_ne_nil _ _)]
  show pickBest [(0, (minimaxL 3 [some O, some X, some X, none, some O, none, some O, some X, none] X O).2), (3, (minimaxL 3 [none, some X, some X, some O, some O, none, some O, some X, none] X O).2), (5, (minimaxL 3 [none, some X, some X, none, some O, some O, some O, some X, none] X O).2), (8, (minimaxL 3 [none, some X, some X, none, some O, none, some O, some X, some O] X O).2)] O = (some 0, -1)
  rw [mmv_2215, mmv_2217, mmv_2218, mmv_2219]
  rfl

theorem mmv_2220 : minimaxL 4 [none, some X, none, none, some O, none, some O, some X, some X] O X = (some 2, -1) := rfl

theorem mmv_2213 : minimaxL 5 [none, some X, none, none, some O, none, some O, some X, none] X O = (some 8, -1) := by
  rw [minimaxL_succ 4 [none, some X, none, none, some O, none, some O, some X, none] X O [0, 2, 3, 5, 8] rfl rfl (List.cons_ne_nil _ _)]
  show pickBest [(0, (minimaxL 4 [some X, some X, none, none, some O, none, some O, some X, none] O X).2), (2, (minimaxL 4 [none, some X, some X, none, some O, none, some O, some X, none] O X).2), (3, (minimaxL 4 [none, some X, none, some X, some O, none, some O, some X, none] O X).2), (5, (minimaxL 4 [none, some X, none, none, some O, some X, some O, some X, none] O X).2), (8, (minimaxL 4 [none, some X, none, none, some O, none, some O, some X, some X] O X).2)] X = (some 8, -1)
  rw [mmv_1022, mmv_2214, mmv_2136, mmv_2172, mmv_2220]
  rfl

theorem mmv_2222 : minimaxL 4 [none, some X, some X, none, some O, none, none, some X, some O] O X = (some 0, -1) := rfl

theorem mmv_2221 : minimaxL 5 [none, some X, none, none, some O, none, none, some X, some O] X O = (some 6, -1) := by
  rw [minimaxL_succ 4 [none, some X, none, none, some O, none, none, some X, some O] X O [0, 2, 3, 5, 6] rfl rfl (List.cons_ne_nil _ _)]
  show pickBest [(0, (minimaxL 4 [some X, some X, none, none, some O, none, none, some X, some O] O X).2), (2, (minimaxL 4 [none, some X, some X, none, some O, none, none, some X, some O] O X).2), (3, (minimaxL 4 [none, some X, none, some X, some O, none, none, some X, some O] O X).2), (5, (minimaxL 4 [none, some X, none, none, some O, some X, none, some X, some O] O X).2), (6, (minimaxL 4 [none, some X, none, none, some O, none, some X, some X, some O] O X).2)] X = (some 6, -1)
  rw [mmv_1028, mmv_2222, mmv_2165, mmv_2186, mmv_2208]
  rfl

theorem mmv_2209 : minimaxL 6 [none, some X, none, none, some O, none, none, some X, none] O X = (some 0, -1) := by
  rw [minimaxL_succ 5 [none, some X, none, none, some O, none, none, some X, none] O X [0, 2, 3, 5, 6, 8] rfl rfl (List.cons_ne_nil _ _)]
  show pickBest [(0, (minimaxL 5 [some O, some X, none, none, some O, none, none, some X, none] X O).2), (2, (minimaxL 5 [none, some X, some O, none, some O, none, none, some X, none] X O).2), (3, (minimaxL 5 [none, some X, none, some O, some O, none, none, some X, none] X O).2), (5, (minimaxL 5 [none, some X, none, none, some O, some O, none, some X, none] X O).2), (6, (minimaxL 5 [none, some X, none, none, some O, none, some O, some X, none] X O).2), (8, (minimaxL 5 [none, some X, none, none, some O, none, none, some X, some O] X O).2)] O = (some 0, -1)
  rw [mmv_1697, mmv_1917, mmv_2061, mmv_2210, mmv_2213, mmv_2221]
  rfl

theorem mmv_2225 : minimaxL 4 [none, some X, some X, none, some O, some O, none, none, some X] O X = (some 3, -1) := rfl

theorem mmv_2224 : minimaxL 5 [none, some X, none, none, some O, some O, none, none, some X] X O = (some 3, 0) := by
  rw [minimaxL_succ 4 [none, some X, none, none, some O, some O, none, none, some X] X O [0, 2, 3, 6, 7] rfl rfl (List.cons_ne_nil _ _)]
  show pickBest [(0, (minimaxL 4 [some X, some X, none, none, some O, some O, none, none, some X] O X).2), (2, (minimaxL 4 [none, some X, some X, none, some O, some O, none, none, some X] O X).2), (3, (minimaxL 4 [none, some X, none, some X, some O, some O, none, none, some X] O X).2), (6, (minimaxL 4 [none, some X, none, none, some O, some O, some X, none, some X] O X).2), (7, (minimaxL 4 [none, some X, none, none, some O, some O, none, some X, some X] O X).2)] X = (some 3, 0)
  rw [mmv_1045, mmv_2225, mmv_2122, mmv_2192, mmv_2212]
  rfl

theorem mmv_2228 : minimaxL 3 [none, some X, some X, some O, some O, none, some O, none, some X] X O = (some 0, 1) := rfl

theorem mmv_2229 : minimaxL 3 [none, some X, some X, none, some O, some O, some O, none, some X] X O = (some 0, 1) := rfl

theorem mmv_2230 : minimaxL 3 [none, some X, some X, none, some O, none, some O, some O, some X] X O = (some 0, 1) := rfl

theorem mmv_2227 : minimaxL 4 [none, some X, some X, none, some O, none, some O, none, some X] O X = (some 0, 1) := by
  rw [minimaxL_succ 3 [none, some X, some X, none, some O, none, some O, none, some X] O X [0, 3, 5, 7] rfl rfl (List.cons_ne_nil _ _)]
  show pickBest [(0, (minimaxL 3 [some O, some X, some X, none, some O, none, some O, none, some X] X O).2), (3, (minimaxL 3 [none, some X, some X, some O, some O, none, some O, none, some X] X O).2), (5, (minimaxL 3 [none, some X, some X, none, some O, some O, some O, none, some X] X O).2), (7, (minimaxL 3 [none, some X, some X, none, some O, none, some O, some O, some X] X O).2)] O = (some 0, 1)
  rw [mmv_1263, mmv_2228, mmv_2229, mmv_2230]
  rfl

theorem mmv_2226 : minimaxL 5 [none, some X, none, none, some O, none, some O, none, some X] X O = (some 2, 1) := by
  rw [minimaxL_succ 4 [none, some X, none, none, some O, none, some O, none, some X] X O [0, 2, 3, 5, 7] rfl rfl (List.cons_ne_nil _ _)]
  show pickBest [(0, (minimaxL 4 [some X, some X, none, none, some O, none, some O, none, some X] O X).2), (2, (minimaxL 4 [none, some X, some X, none, some O, none, some O, none, some X] O X).2), (3, (minimaxL 4 [none, some X, none, some X, some O, none, some O, none, some X] O X).2), (5, (minimaxL 4 [none, some X, none, none, some O, some X, some O, none, some X] O X).2), (7, (minimaxL 4 [none, some X, none, none, some O, none, some O, some X, some X] O X).2)] X = (some 2, 1)
  rw [mmv_1057, mmv_2227, mmv_2137, mmv_2173, mmv_2220]
  rfl

theorem mmv_2233 : minimaxL 3 [none, some X, some X, none, some O, some O, none, some O, some X] X O = (some 0, 1) := rfl

theorem mmv_2232 : minimaxL 4 [none, some X, some X, none, some O, none, none, some O, some X] O X = (some 0, 1) := by
  rw [minimaxL_succ 3 [none, some X, some X, none, some O, none, none, some O, some X] O X [0, 3, 5, 6] rfl rfl (List.cons_ne_nil _ _)]
  show pickBest [(0, (minimaxL 3 [some O, some X, some X, none, some O, none, none, some O, some X] X O).2), (3, (minimaxL 3 [none, some X, some X, some O, some O, none, none, some O, some X] X O).2), (5, (minimaxL 3 [none, some X, some X, none, some O, some O, none, some O, some X] X O).2), (6, (minimaxL 3 [none, some X, some X, none, some O, none, some O, some O, some X] X O).2)] O = (some 0, 1)
  rw [mmv_1264, mmv_2088, mmv_2233, mmv_2230]
  rfl

theorem mmv_2231 : minimaxL 5 [none, some X, none, none, some O, none, none, some O, some X] X O = (some 2, 1) := by
  rw [minimaxL_succ 4 [none, some X, none, none, some O, none, none, some O, some X] X O [0, 2, 3, 5, 6] rfl rfl (List.cons_ne_nil _ _)]
  show pickBest [(0, (minimaxL 4 [some X, some X, none, none, some O, none, none, some O, some X] O X).2), (2, (minimaxL 4 [none, some X, some X, none, some O, none, none, some O, some X] O X).2), (3, (minimaxL 4 [none, some X, none, some X, some O, none, none, some O, some X] O X).2), (5, (minimaxL 4 [none, some X, none, none, some O, some X, none, some O, some X] O X).2), (6, (minimaxL 4 [none, some X, none, none, some O, none, some X, some O, some X] O X).2)] X = (some 2, 1)
  rw [mmv_1063, mmv_2232, mmv_2155, mmv_2181, mmv_2200]
  rfl

theorem mmv_2223 : minimaxL 6 [none, some X, none, none, some O, none, none, none, some X] O X = (some 0, 0) := by
  rw [minimaxL_succ 5 [none, some X, none, none, some O, none, none, none, some X] O X [0, 2, 3, 5, 6, 7] rfl rfl (List.cons_ne_nil _ _)]
  show pickBest [(0, (minimaxL 5 [some O, some X, none, none, some O, none, none, none, some X] X O).2), (2, (minimaxL 5 [none, some X, some O, none, some O, none, none, none, some X] X O).2), (3, (minimaxL 5 [none, some X, none, some O, some O, none, none, none, some X] X O).2), (5, (minimaxL 5 [none, some X, none, none, some O, some O, none, none, some X] X O).2), (6, (minimaxL 5 [none, some X, none, none, some O, none, some O, none, some X] X O).2), (7, (minimaxL 5 [none, some X, none, none, some O, none, none, some O, some X] X O).2)] O = (some 0, 0)
  rw [mmv_1721, mmv_1931, mmv_2068, mmv_2224, mmv_2226, mmv_2231]
  rfl

theorem mmv_2091 : minimaxL 7 [none, some X, none, none, some O, none, none, none, none] X O = (some 8, 0) := by
  rw [minimaxL_succ 6 [none, some X, none, none, some O, none, none, none, none] X O [0, 2, 3, 5, 6, 7, 8] rfl rfl (List.cons_ne_nil _ _)]
  show pickBest [(0, (minimaxL 6 [some X, some X, none, none, some O, none, none, none, none] O X).2), (2, (minimaxL 6 [none, some X, some X, none, some O, none, none, none, none] O X).2), (3, (minimaxL 6 [none, some X, none, some X, some O, none, none, none, none] O X).2), (5, (minimaxL 6 [none, some X, none, none, some O, some X, none, none, none] O X).2), (6, (minimaxL 6 [none, some X, none, none, some O, none, some X, none, none] O X).2), (7, (minimaxL 6 [none, some X, none, none, some O, none, none, some X, none] O X).2), (8, (minimaxL 6 [none, some X, none, none, some O, none, none, none, some X] O X).2)] X = (some 8, 0)
  rw [mmv_0947, mmv_2092, mmv_2097, mmv_2166, mmv_2187, mmv_2209, mmv_2223]
  rfl

theorem mmv_2236 : minimaxL 5 [none, some X, some X, none, none, some O, some O, none, none] X O = (some 0, 1) := rfl

theorem mmv_2237 : minimaxL 5 [none, some X, some X, none, none, some O, none, some O, none] X O = (some 0, 1) := rfl

theorem mmv_2238 : minimaxL 5 [none, some X, some X, none, none, some O, none, none, some O] X O = (some 0, 1) := rfl

theorem mmv_2235 : minimaxL 6 [none, some X, some X, none, none, some O, none, none, none] O X = (some 0, 1) := by
  rw [minimaxL_succ 5 [none, some X, some X, none, none, some O, none, none, none] O X [0, 3, 4, 6, 7, 8] rfl rfl (List.cons_ne_nil _ _)]
  show pickBest [(0, (minimaxL 5 [some O, some X, some X, none, none, some O, none, none, none] X O).2), (3, (minimaxL 5 [none, some X, some X, some O, none, some O, none, none, none] X O).2), (4, (minimaxL 5 [none, some X, some X, none, some O, some O, none, none, none] X O).2), (6, (minimaxL 5 [none, some X, some X, none, none, some O, some O, none, none] X O).2), (7, (minimaxL 5 [none, some X, some X, none, none, some O, none, some O, none] X O).2), (8, (minimaxL 5 [none, some X, some X, none, none, some O, none, none, some O] X O).2)] O = (some 0, 1)
  rw [mmv_1265, mmv_1945, mmv_2093, mmv_2236, mmv_2237, mmv_2238]
  rfl

theorem mmv_2242 : minimaxL 3 [none, some X, some X, some X, none, some O, some O, some O, none] X O = (some 0, 1) := rfl

theorem mmv_2243 : minimaxL 3 [none, some X, some X, some X, none, some O, some O, none, some O] X O = (some 0, 1) := rfl

theorem mmv_2241 : minimaxL 4 [none, some X, some X, some X, none, some O, some O, none, none] O X = (some 0, 0) := by
  rw [minimaxL_succ 3 [none, some X, some X, some X, none, some O, some O, none, none] O X [0, 4, 7, 8] rfl rfl (List.cons_ne_nil _ _)]
  show pickBest [(0, (minimaxL 3 [some O, some X, some X, some X, none, some O, some O, none, none] X O).2), (4, (minimaxL 3 [none, some X, some X, some X, some O, some O, some O, none, none] X O).2), (7, (minimaxL 3 [none, some X, some X, some X, none, some O, some O, some O, none] X O).2), (8, (minimaxL 3 [none, some X, some X, some X, none, some O, some O, none, some O] X O).2)] O = (some 0, 0)
  rw [mmv_1270, mmv_2104, mmv_2242, mmv_2243]
  rfl

theorem mmv_2246 : minimaxL 2 [some X, some X, none, some X, some X, some O, some O, some O, none] O X = (some 8, -1) := rfl

theorem mmv_2247 : minimaxL 2 [none, some X, some X, some X, some X, some O, some O, some O, none] O X = (some 8, -1) := rfl

theorem mmv_2248 : minimaxL 2 [none, some X, none, some X, some X, some O, some O, some O, some X] O X = (some 0, 0) := by
  rw [minimaxL_succ 1 [none, some X, none, some X, some X, some O, some O, some O, some X] O X [0, 2] rfl rfl (List.cons_ne_nil _ _)]
  show pickBest [(0, (minimaxL 1 [some O, some X, none, some X, some X, some O, some O, some O, some X] X O).2), (2, (minimaxL 1 [none, some X, some O, some X, some X, some O, some O, some O, some X] X O).2)] O = (some 0, 0)
  rw [mmv_1469, mmv_1754]
  rfl

theorem mmv_2245 : minimaxL 3 [none, some X, none, some X, some X, some O, some O, some O, none] X O = (some 8, 0) := by
  rw [minimaxL_succ 2 [none, some X, none, some X, some X, some O, some O, some O, none] X O [0, 2, 8] rfl rfl (List.cons_ne_nil _ _)]
  show pickBest [(0, (minimaxL 2 [some X, some X, none, some X, some X, some O, some O, some O, none] O X).2), (2, (minimaxL 2 [none, some X, some X, some X, some X, some O, some O, some O, none] O X).2), (8, (minimaxL 2 [none, some X, none, some X, some X, some O, some O, some O, some X] O X).2)] X = (some 8, 0)
  rw [mmv_2246, mmv_2247, mmv_2248]
  rfl

theorem mmv_2249 : minimaxL 3 [none, some X, none, some X, some X, some O, some O, none, some O] X O = (some 7, 1) := rfl

theorem mmv_2244 : minimaxL 4 [none, some X, none, some X, some X, some O, some O, none, none] O X = (some 7, 0) := by
  rw [minimaxL_succ 3 [none, some X, none, some X, some X, some O, some O, none, none] O X [0, 2, 7, 8] rfl rfl (List.cons_ne_nil _ _)]
  show pickBest [(0, (minimaxL 3 [some O, some X, none, some X, some X, some O, some O, none, none] X O).2), (2, (minimaxL 3 [none, some X, some O, some X, some X, some O, some O, none, none] X O).2), (7, (minimaxL 3 [none, some X, none, some X, some X, some O, some O, some O, none] X O).2), (8, (minimaxL 3 [none, some X, none, some X, some X, some O, some O, none, some O] X O).2)] O = (some 7, 0)
  rw [mmv_1464, mmv_1764, mmv_2245, mmv_2249]
  rfl

theorem mmv_2251 : minimaxL 3 [none, some X, some O, some X, none, some O, some O, some X, none] X O = (some 4, 1) := rfl

theorem mmv_2252 : minimaxL 3 [none, some X, none, some X, none, some O, some O, some X, some O] X O = (some 4, 1) := rfl

theorem mmv_2250 : minimaxL 4 [none, some X, none, some X, none, some O, some O, some X, none] O X = (some 4, 0) := by
  rw [minimaxL_succ 3 [none, some X, none, some X, none, some O, some O, some X, none] O X [0, 2, 4, 8] rfl rfl (List.cons_ne_nil _ _)]
  show pickBest [(0, (minimaxL 3 [some O, some X, none, some X, none, some O, some O, some X, none] X O).2), (2, (minimaxL 3 [none, some X, some O, some X, none, some O, some O, some X, none] X O).2), (4, (minimaxL 3 [none, some X, none, some X, some O, some O, some O, some X, none] X O).2), (8, (minimaxL 3 [none, some X, none, some X, none, some O, some O, some X, some O] X O).2)] O = (some 4, 0)
  rw [mmv_1481, mmv_2251, mmv_2114, mmv_2252]
  rfl

theorem mmv_2255 : minimaxL 2 [some X, some X, none, some X, none, some O, some O, some O, some X] O X = (some 2, 1) := by
  rw [minimaxL_succ 1 [some X, some X, none, some X, none, some O, some O, some O, some X] O X [2, 4] rfl rfl (List.cons_ne_nil _ _)]
  show pickBest [(2, (minimaxL 1 [some X, some X, some O, some X, none, some O, some O, some O, some X] X O).2), (4, (minimaxL 1 [some X, some X, none, some X, some O, some O, some O, some O, some X] X O).2)] O = (some 2, 1)
  rw [mmv_1759, mmv_2128]
  rfl

theorem mmv_2256 : minimaxL 2 [none, some X, some X, some X, none, some O, some O, some O, some X] O X = (some 0, 0) := by
  rw [minimaxL_succ 1 [none, some X, some X, some X, none, some O, some O, some O, some X] O X [0, 4] rfl rfl (List.cons_ne_nil _ _)]
  show pickBest [(0, (minimaxL 1 [some O, some X, some X, some X, none, some O, some O, some O, some X] X O).2), (4, (minimaxL 1 [none, some X, some X, some X, some O, some O, some O, some O, some X] X O).2)] O = (some 0, 0)
  rw [mmv_1279, mmv_2125]
  rfl

theorem mmv_2254 : minimaxL 3 [none, some X, none, some X, none, some O, some O, some O, some X] X O = (some 0, 1) := by
  rw [minimaxL_succ 2 [none, some X, none, some X, none, some O, some O, some O, some X] X O [0, 2, 4] rfl rfl (List.cons_ne_nil _ _)]
  show pickBest [(0, (minimaxL 2 [some X, some X, none, some X, none, some O, some O, some O, some X] O X).2), (2, (minimaxL 2 [none, some X, some X, some X, none, some O, some O, some O, some X] O X).2), (4, (minimaxL 2 [none, some X, none, some X, some X, some O, some O, some O, some X] O X).2)] X = (some 0, 1)
  rw [mmv_2255, mmv_2256, mmv_2248]
  rfl

theorem mmv_2253 : minimaxL 4 [none, some X, none, some X, none, some O, some O, none, some X] O X = (some 0, 0) := by
  rw [minimaxL_succ 3 [none, some X, none, some X, none, some O, some O, none, some X] O X [0, 2, 4, 7] rfl rfl (List.cons_ne_nil _ _)]
  show pickBest [(0, (minimaxL 3 [some O, some X, none, some X, none, some O, some O, none, some X] X O).2), (2, (minimaxL 3 [none, some X, some O, some X, none, some O, some O, none, some X] X O).2), (4, (minimaxL 3 [none, some X, none, some X, some O, some O, some O, none, some X] X O).2), (7, (minimaxL 3 [none, some X, none, some X, none, some O, some O, some O, some X] X O).2)] O = (some 0, 0)
  rw [mmv_1484, mmv_1752, mmv_2123, mmv_2254]
  rfl

theorem mmv_2240 : minimaxL 5 [none, some X, none, some X, none, some O, some O, none, none] X O = (some 8, 0) := by
  rw [minimaxL_succ 4 [none, some X, none, some X, none, some O, some O, none, none] X O [0, 2, 4, 7, 8] rfl rfl (List.cons_ne_nil _ _)]
  show pickBest [(0, (minimaxL 4 [some X, some X, none, some X, none, some O, some O, none, none] O X).2), (2, (minimaxL 4 [none, some X, some X, some X, none, some O, some O, none, none] O X).2), (4, (minimaxL 4 [none, some X, none, some X, some X, some O, some O, none, none] O X).2), (7, (minimaxL 4 [none, some X, none, some X, none, some O, some O, some X, none] O X).2), (8, (minimaxL 4 [none, some X, none, some X, none, some O, some O, none, some X] O X).2)] X = (some 8, 0)
  rw [mmv_1081, mmv_2241, mmv_2244, mmv_2250, mmv_2253]
  rfl

theorem mmv_2259 : minimaxL 3 [some X, some X, none, some X, none, some O, none, some O, some O] X O = (some 2, 1) := rfl

theorem mmv_2258 : minimaxL 4 [some X, some X, none, some X, none, some O, none, some O, none] O X = (some 2, 1) := by
  rw [minimaxL_succ 3 [some X, some X, none, some X, none, some O, none, some O, none] O X [2, 4, 6, 8] rfl rfl (List.cons_ne_nil _ _)]
  show pickBest [(2, (minimaxL 3 [some X, some X, some O, some X, none, some O, none, some O, none] X O).2), (4, (minimaxL 3 [some X, some X, none, some X, some O, some O, none, some O, none] X O).2), (6, (minimaxL 3 [some X, some X, none, some X, none, some O, some O, some O, none] X O).2), (8, (minimaxL 3 [some X, some X, none, some X, none, some O, none, some O, some O] X O).2)] O = (some 2, 1)
  rw [mmv_0555, mmv_2101, mmv_1087, mmv_2259]
  rfl

theorem mmv_2261 : minimaxL 3 [none, some X, some X, some X, none, some O, none, some O, some O] X O = (some 0, 1) := rfl

theorem mmv_2260 : minimaxL 4 [none, some X, some X, some X, none, some O, none, some O, none] O X = (some 0, 0) := by
  rw [minimaxL_succ 3 [none, some X, some X, some X, none, some O, none, some O, none] O X [0, 4, 6, 8] rfl rfl (List.cons_ne_nil _ _)]
  show pickBest [(0, (minimaxL 3 [some O, some X, some X, some X, none, some O, none, some O, none] X O).2), (4, (minimaxL 3 [none, some X, some X, some X, some O, some O, none, some O, none] X O).2), (6, (minimaxL 3 [none, some X, some X, some X, none, some O, some O, some O, none] X O).2), (8, (minimaxL 3 [none, some X, some X, some X, none, some O, none, some O, some O] X O).2)] O = (some 0, 0)
  rw [mmv_1280, mmv_2105, mmv_2242, mmv_2261]
  rfl

theorem mmv_2264 : minimaxL 2 [some X, some X, none, some X, some X, some O, none, some O, some O] O X = (some 2, -1) := rfl

theorem mmv_2265 : minimaxL 2 [none, some X, some X, some X, some X, some O, none, some O, some O] O X = (some 6, -1) := rfl

theorem mmv_2266 : minimaxL 2 [none, some X, none, some X, some X, some O, some X, some O, some O] O X = (some 2, -1) := rfl

theorem mmv_2263 : minimaxL 3 [none, some X, none, some X, some X, some O, none, some O, some O] X O = (some 6, -1) := by
  rw [minimaxL_succ 2 [none, some X, none, some X, some X, some O, none, some O, some O] X O [0, 2, 6] rfl rfl (List.cons_ne_nil _ _)]
  show pickBest [(0, (minimaxL 2 [some X, some X, none, some X, some X, some O, none, some O, some O] O X).2), (2, (minimaxL 2 [none, some X, some X, some X, some X, some O, none, some O, some O] O X).2), (6, (minimaxL 2 [none, some X, none, some X, some X, some O, some X, some O, some O] O X).2)] X = (some 6, -1)
  rw [mmv_2264, mmv_2265, mmv_2266]
  rfl

theorem mmv_2262 : minimaxL 4 [none, some X, none, some X, some X, some O, none, some O, none] O X = (some 8, -1) := by
  rw [minimaxL_succ 3 [none, some X, none, some X, some X, some O, none, some O, none] O X [0, 2, 6, 8] rfl rfl (List.cons_ne_nil _ _)]
  show pickBest [(0, (minimaxL 3 [some O, some X, none, some X, some X, some O, none, some O, none] X O).2), (2, (minimaxL 3 [none, some X, some O, some X, some X, some O, none, some O, none] X O).2), (6, (minimaxL 3 [none, some X, none, some X, some X, some O, some O, some O, none] X O).2), (8, (minimaxL 3 [none, some X, none, some X, some X, some O, none, some O, some O] X O).2)] O = (some 8, -1)
  rw [mmv_1465, mmv_1772, mmv_2245, mmv_2263]
  rfl

theorem mmv_2268 : minimaxL 3 [none, some X, none, some X, none, some O, some X, some O, some O] X O = (some 0, 1) := rfl

theorem mmv_2267 : minimaxL 4 [none, some X, none, some X, none, some O, some X, some O, none] O X = (some 0, 0) := by
  rw [minimaxL_succ 3 [none, some X, none, some X, none, some O, some X, some O, none] O X [0, 2, 4, 8] rfl rfl (List.cons_ne_nil _ _)]
  show pickBest [(0, (minimaxL 3 [some O, some X, none, some X, none, some O, some X, some O, none] X O).2), (2, (minimaxL 3 [none, some X, some O, some X, none, some O, some X, some O, none] X O).2), (4, (minimaxL 3 [none, some X, none, some X, some O, some O, some X, some O, none] X O).2), (8, (minimaxL 3 [none, some X, none, some X, none, some O, some X, some O, some O] X O).2)] O = (some 0, 0)
  rw [mmv_1474, mmv_1784, mmv_2108, mmv_2268]
  rfl

theorem mmv_2269 : minimaxL 4 [none, some X, none, some X, none, some O, none, some O, some X] O X = (some 0, 0) := by
  rw [minimaxL_succ 3 [none, some X, none, some X, none, some O, none, some O, some X] O X [0, 2, 4, 6] rfl rfl (List.cons_ne_nil _ _)]
  show pickBest [(0, (minimaxL 3 [some O, some X, none, some X, none, some O, none, some O, some X] X O).2), (2, (minimaxL 3 [none, some X, some O, some X, none, some O, none, some O, some X] X O).2), (4, (minimaxL 3 [none, some X, none, some X, some O, some O, none, some O, some X] X O).2), (6, (minimaxL 3 [none, some X, none, some X, none, some O, some O, some O, some X] X O).2)] O = (some 0, 0)
  rw [mmv_1487, mmv_1756, mmv_2126, mmv_2254]
  rfl

theorem mmv_2257 : minimaxL 5 [none, some X, none, some X, none, some O, none, some O, none] X O = (some 0, 1) := by
  rw [minimaxL_succ 4 [none, some X, none, some X, none, some O, none, some O, none] X O [0, 2, 4, 6, 8] rfl rfl (List.cons_ne_nil _ _)]
  show pickBest [(0, (minimaxL 4 [some X, some X, none, some X, none, some O, none, some O, none] O X).2), (2, (minimaxL 4 [none, some X, some X, some X, none, some O, none, some O, none] O X).2), (4, (minimaxL 4 [none, some X, none, some X, some X, some O, none, some O, none] O X).2), (6, (minimaxL 4 [none, some X, none, some X, none, some O, some X, some O, none] O X).2), (8, (minimaxL 4 [none, some X, none, some X, none, some O, none, some O, some X] O X).2)] X = (some 0, 1)
  rw [mmv_2258, mmv_2260, mmv_2262, mmv_2267, mmv_2269]
  rfl

theorem mmv_2271 : minimaxL 4 [some X, some X, none, some X, none, some O, none, none, some O] O X = (some 2, -1) := rfl

theorem mmv_2272 : minimaxL 4 [none, some X, some X, some X, none, some O, none, none, some O] O X = (some 0, 1) := by
  rw [minimaxL_succ 3 [none, some X, some X, some X, none, some O, none, none, some O] O X [0, 4, 6, 7] rfl rfl (List.cons_ne_nil _ _)]
  show pickBest [(0, (minimaxL 3 [some O, some X, some X, some X, none, some O, none, none, some O] X O).2), (4, (minimaxL 3 [none, some X, some X, some X, some O, some O, none, none, some O] X O).2), (6, (minimaxL 3 [none, some X, some X, some X, none, some O, some O, none, some O] X O).2), (7, (minimaxL 3 [none, some X, some X, some X, none, some O, none, some O, some O] X O).2)] O = (some 0, 1)
  rw [mmv_1287, mmv_2106, mmv_2243, mmv_2261]
  rfl

theorem mmv_2273 : minimaxL 4 [none, some X, none, some X, some X, some O, none, none, some O] O X = (some 2, -1) := rfl

theorem mmv_2274 : minimaxL 4 [none, some X, none, some X, none, some O, some X, none, some O] O X = (some 2, -1) := rfl

theorem mmv_2275 : minimaxL 4 [none, some X, none, some X, none, some O, none, some X, some O] O X = (some 2, -1) := rfl

theorem mmv_2270 : minimaxL 5 [none, some X, none, some X, none, some O, none, none, some O] X O = (some 2, 1) := by
  rw [minimaxL_succ 4 [none, some X, none, some X, none, some O, none, none, some O] X O [0, 2, 4, 6, 7] rfl rfl (List.cons_ne_nil _ _)]
  show pickBest [(0, (minimaxL 4 [some X, some X, none, some X, none, some O, none, none, some O] O X).2), (2, (minimaxL 4 [none, some X, some X, some X, none, some O, none, none, some O] O X).2), (4, (minimaxL 4 [none, some X, none, some X, some X, some O, none, none, some O] O X).2), (6, (minimaxL 4 [none, some X, none, some X, none, some O, some X, none, some O] O X).2), (7, (minimaxL 4 [none, some X, none, some X, none, some O, none, some X, some O] O X).2)] X = (some 2, 1)
  rw [mmv_2271, mmv_2272, mmv_2273, mmv_2274, mmv_2275]
  rfl

theorem mmv_2239 : minimaxL 6 [none, some X, none, some X, none, some O, none, none, none] O X = (some 0, 0) := by
  rw [minimaxL_succ 5 [none, some X, none, some X, none, some O, none, none, none] O X [0, 2, 4, 6, 7, 8] rfl rfl (List.cons_ne_nil _ _)]
  show pickBest [(0, (minimaxL 5 [some O, some X, none, some X, none, some O, none, none, none] X O).2), (2, (minimaxL 5 [none, some X, some O, some X, none, some O, none, none, none] X O).2), (4, (minimaxL 5 [none, some X, none, some X, some O, some O, none, none, none] X O).2), (6, (minimaxL 5 [none, some X, none, some X, none, some O, some O, none, none] X O).2), (7, (minimaxL 5 [none, some X, none, some X, none, some O, none, some O, none] X O).2), (8, (minimaxL 5 [none, some X, none, some X, none, some O, none, none, some O] X O).2)] O = (some 0, 0)
  rw [mmv_1462, mmv_1743, mmv_2098, mmv_2240, mmv_2257, mmv_2270]
  rfl

theorem mmv_2277 : minimaxL 5 [none, some X, none, none, some X, some O, some O, none, none] X O = (some 7, 1) := rfl

theorem mmv_2280 : minimaxL 3 [some X, some X, none, none, some X, some O, some O, some O, none] X O = (some 2, 1) := rfl

theorem mmv_2281 : minimaxL 3 [some X, some X, none, none, some X, some O, none, some O, some O] X O = (some 2, 1) := rfl

theorem mmv_2279 : minimaxL 4 [some X, some X, none, none, some X, some O, none, some O, none] O X = (some 2, 1) := by
  rw [minimaxL_succ 3 [some X, some X, none, none, some X, some O, none, some O, none] O X [2, 3, 6, 8] rfl rfl (List.cons_ne_nil _ _)]
  show pickBest [(2, (minimaxL 3 [some X, some X, some O, none, some X, some O, none, some O, none] X O).2), (3, (minimaxL 3 [some X, some X, none, some O, some X, some O, none, some O, none] X O).2), (6, (minimaxL 3 [some X, some X, none, none, some X, some O, some O, some O, none] X O).2), (8, (minimaxL 3 [some X, some X, none, none, some X, some O, none, some O, some O] X O).2)] O = (some 2, 1)
  rw [mmv_0562, mmv_1954, mmv_2280, mmv_2281]
  rfl

theorem mmv_2283 : minimaxL 3 [none, some X, some X, none, some X, some O, some O, some O, none] X O = (some 0, 1) := rfl

theorem mmv_2284 : minimaxL 3 [none, some X, some X, none, some X, some O, none, some O, some O] X O = (some 0, 1) := rfl

theorem mmv_2282 : minimaxL 4 [none, some X, some X, none, some X, some O, none, some O, none] O X = (some 0, 1) := by
  rw [minimaxL_succ 3 [none, some X, some X, none, some X, some O, none, some O, none] O X [0, 3, 6, 8] rfl rfl (List.cons_ne_nil _ _)]
  show pickBest [(0, (minimaxL 3 [some O, some X, some X, none, some X, some O, none, some O, none] X O).2), (3, (minimaxL 3 [none, some X, some X, some O, some X, some O, none, some O, none] X O).2), (6, (minimaxL 3 [none, some X, some X, none, some X, some O, some O, some O, none] X O).2), (8, (minimaxL 3 [none, some X, some X, none, some X, some O, none, some O, some O] X O).2)] O = (some 0, 1)
  rw [mmv_1294, mmv_1957, mmv_2283, mmv_2284]
  rfl

theorem mmv_2286 : minimaxL 3 [none, some X, none, none, some X, some O, some X, some O, some O] X O = (some 2, 1) := rfl

theorem mmv_2285 : minimaxL 4 [none, some X, none, none, some X, some O, some X, some O, none] O X = (some 2, 0) := by
  rw [minimaxL_succ 3 [none, some X, none, none, some X, some O, some X, some O, none] O X [0, 2, 3, 8] rfl rfl (List.cons_ne_nil _ _)]
  show pickBest [(0, (minimaxL 3 [some O, some X, none, none, some X, some O, some X, some O, none] X O).2), (2, (minimaxL 3 [none, some X, some O, none, some X, some O, some X, some O, none] X O).2), (3, (minimaxL 3 [none, some X, none, some O, some X, some O, some X, some O, none] X O).2), (8, (minimaxL 3 [none, some X, none, none, some X, some O, some X, some O, some O] X O).2)] O = (some 2, 0)
  rw [mmv_1547, mmv_1818, mmv_1969, mmv_2286]
  rfl

theorem mmv_2288 : minimaxL 3 [none, some X, none, none, some X, some O, some O, some O, some X] X O = (some 0, 1) := rfl

theorem mmv_2287 : minimaxL 4 [none, some X, none, none, some X, some O, none, some O, some X] O X = (some 0, 0) := by
  rw [minimaxL_succ 3 [none, some X, none, none, some X, some O, none, some O, some X] O X [0, 2, 3, 6] rfl rfl (List.cons_ne_nil _ _)]
  show pickBest [(0, (minimaxL 3 [some O, some X, none, none, some X, some O, none, some O, some X] X O).2), (2, (minimaxL 3 [none, some X, some O, none, some X, some O, none, some O, some X] X O).2), (3, (minimaxL 3 [none, some X, none, some O, some X, some O, none, some O, some X] X O).2), (6, (minimaxL 3 [none, some X, none, none, some X, some O, some O, some O, some X] X O).2)] O = (some 0, 0)
  rw [mmv_1558, mmv_1826, mmv_1972, mmv_2288]
  rfl

theorem mmv_2278 : minimaxL 5 [none, some X, none, none, some X, some O, none, some O, none] X O = (some 2, 1) := by
  rw [minimaxL_succ 4 [none, some X, none, none, some X, some O, none, some O, none] X O [0, 2, 3, 6, 8] rfl rfl (List.cons_ne_nil _ _)]
  show pickBest [(0, (minimaxL 4 [some X, some X, none, none, some X, some O, none, some O, none] O X).2), (2, (minimaxL 4 [none, some X, some X, none, some X, some O, none, some O, none] O X).2), (3, (minimaxL 4 [none, some X, none, some X, some X, some O, none, some O, none] O X).2), (6, (minimaxL 4 [none, some X, none, none, some X, some O, some X, some O, none] O X).2), (8, (minimaxL 4 [none, some X, none, none, some X, some O, none, some O, some X] O X).2)] X = (some 2, 1)
  rw [mmv_2279, mmv_2282, mmv_2262, mmv_2285, mmv_2287]
  rfl

theorem mmv_2289 : minimaxL 5 [none, some X, none, none, some X, some O, none, none, some O] X O = (some 7, 1) := rfl

theorem mmv_2276 : minimaxL 6 [none, some X, none, none, some X, some O, none, none, none] O X = (some 0, 1) := by
  rw [minimaxL_succ 5 [none, some X, none, none, some X, some O, none, none, none] O X [0, 2, 3, 6, 7, 8] rfl rfl (List.cons_ne_nil _ _)]
  show pickBest [(0, (minimaxL 5 [some O, some X, none, none, some X, some O, none, none, none] X O).2), (2, (minimaxL 5 [none, some X, some O, none, some X, some O, none, none, none] X O).2), (3, (minimaxL 5 [none, some X, none, some O, some X, some O, none, none, none] X O).2), (6, (minimaxL 5 [none, some X, none, none, some X, some O, some O, none, none] X O).2), (7, (minimaxL 5 [none, some X, none, none, some X, some O, none, some O, none] X O).2), (8, (minimaxL 5 [none, some X, none, none, some X, some O, none, none, some O] X O).2)] O = (some 0, 1)
  rw [mmv_1525, mmv_1803, mmv_1950, mmv_2277, mmv_2278, mmv_2289]
  rfl

theorem mmv_2293 : minimaxL 3 [some X, some X, none, none, none, some O, some X, some O, some O] X O = (some 2, 1) := rfl

theorem mmv_2292 : minimaxL 4 [some X, some X, none, none, none, some O, some X, some O, none] O X = (some 2, 1) := by
  rw [minimaxL_succ 3 [some X, some X, none, none, none, some O, some X, some O, none] O X [2, 3, 4, 8] rfl rfl (List.cons_ne_nil _ _)]
  show pickBest [(2, (minimaxL 3 [some X, some X, some O, none, none, some O, some X, some O, none] X O).2), (3, (minimaxL 3 [some X, some X, none, some O, none, some O, some X, some O, none] X O).2), (4, (minimaxL 3 [some X, some X, none, none, some O, some O, some X, some O, none] X O).2), (8, (minimaxL 3 [some X, some X, none, none, none, some O, some X, some O, some O] X O).2)] O = (some 2, 1)
  rw [mmv_0580, mmv_0879, mmv_2195, mmv_2293]
  rfl

theorem mmv_2295 : minimaxL 3 [none, some X, some X, none, none, some O, some X, some O, some O] X O = (some 0, 1) := rfl

theorem mmv_2294 : minimaxL 4 [none, some X, some X, none, none, some O, some X, some O, none] O X = (some 0, 1) := by
  rw [minimaxL_succ 3 [none, some X, some X, none, none, some O, some X, some O, none] O X [0, 3, 4, 8] rfl rfl (List.cons_ne_nil _ _)]
  show pickBest [(0, (minimaxL 3 [some O, some X, some X, none, none, some O, some X, some O, none] X O).2), (3, (minimaxL 3 [none, some X, some X, some O, none, some O, some X, some O, none] X O).2), (4, (minimaxL 3 [none, some X, some X, none, some O, some O, some X, some O, none] X O).2), (8, (minimaxL 3 [none, some X, some X, none, none, some O, some X, some O, some O] X O).2)] O = (some 0, 1)
  rw [mmv_1299, mmv_2042, mmv_2198, mmv_2295]
  rfl

theorem mmv_2296 : minimaxL 4 [none, some X, none, none, none, some O, some X, some O, some X] O X = (some 0, 0) := by
  rw [minimaxL_succ 3 [none, some X, none, none, none, some O, some X, some O, some X] O X [0, 2, 3, 4] rfl rfl (List.cons_ne_nil _ _)]
  show pickBest [(0, (minimaxL 3 [some O, some X, none, none, none, some O, some X, some O, some X] X O).2), (2, (minimaxL 3 [none, some X, some O, none, none, some O, some X, some O, some X] X O).2), (3, (minimaxL 3 [none, some X, none, some O, none, some O, some X, some O, some X] X O).2), (4, (minimaxL 3 [none, some X, none, none, some O, some O, some X, some O, some X] X O).2)] O = (some 0, 0)
  rw [mmv_1688, mmv_1908, mmv_2047, mmv_2201]
  rfl

theorem mmv_2291 : minimaxL 5 [none, some X, none, none, none, some O, some X, some O, none] X O = (some 2, 1) := by
  rw [minimaxL_succ 4 [none, some X, none, none, none, some O, some X, some O, none] X O [0, 2, 3, 4, 8] rfl rfl (List.cons_ne_nil _ _)]
  show pickBest [(0, (minimaxL 4 [some X, some X, none, none, none, some O, some X, some O, none] O X).2), (2, (minimaxL 4 [none, some X, some X, none, none, some O, some X, some O, none] O X).2), (3, (minimaxL 4 [none, some X, none, some X, none, some O, some X, some O, none] O X).2), (4, (minimaxL 4 [none, some X, none, none, some X, some O, some X, some O, none] O X).2), (8, (minimaxL 4 [none, some X, none, none, none, some O, some X, some O, some X] O X).2)] X = (some 2, 1)
  rw [mmv_2292, mmv_2294, mmv_2267, mmv_2285, mmv_2296]
  rfl

theorem mmv_2298 : minimaxL 4 [some X, some X, none, none, none, some O, some X, none, some O] O X = (some 2, -1) := rfl

theorem mmv_2300 : minimaxL 3 [none, some X, some X, none, some O, some O, some X, none, some O] X O = (some 0, 1) := rfl

theorem mmv_2299 : minimaxL 4 [none, some X, some X, none, none, some O, some X, none, some O] O X = (some 0, 1) := by
  rw [minimaxL_succ 3 [none, some X, some X, none, none, some O, some X, none, some O] O X [0, 3, 4, 7] rfl rfl (List.cons_ne_nil _ _)]
  show pickBest [(0, (minimaxL 3 [some O, some X, some X, none, none, some O, some X, none, some O] X O).2), (3, (minimaxL 3 [none, some X, some X, some O, none, some O, some X, none, some O] X O).2), (4, (minimaxL 3 [none, some X, some X, none, some O, some O, some X, none, some O] X O).2), (7, (minimaxL 3 [none, some X, some X, none, none, some O, some X, some O, some O] X O).2)] O = (some 0, 1)
  rw [mmv_1300, mmv_2054, mmv_2300, mmv_2295]
  rfl

theorem mmv_2301 : minimaxL 4 [none, some X, none, none, some X, some O, some X, none, some O] O X = (some 2, -1) := rfl

theorem mmv_2302 : minimaxL 4 [none, some X, none, none, none, some O, some X, some X, some O] O X = (some 2, -1) := rfl

theorem mmv_2297 : minimaxL 5 [none, some X, none, none, none, some O, some X, none, some O] X O = (some 2, 1) := by
  rw [minimaxL_succ 4 [none, some X, none, none, none, some O, some X, none, some O] X O [0, 2, 3, 4, 7] rfl rfl (List.cons_ne_nil _ _)]
  show pickBest [(0, (minimaxL 4 [some X, some X, none, none, none, some O, some X, none, some O] O X).2), (2, (minimaxL 4 [none, some X, some X, none, none, some O, some X, none, some O] O X).2), (3, (minimaxL 4 [none, some X, none, some X, none, some O, some X, none, some O] O X).2), (4, (minimaxL 4 [none, some X, none, none, some X, some O, some X, none, some O] O X).2), (7, (minimaxL 4 [none, some X, none, none, none, some O, some X, some X, some O] O X).2)] X = (some 2, 1)
  rw [mmv_2298, mmv_2299, mmv_2274, mmv_2301, mmv_2302]
  rfl

theorem mmv_2290 : minimaxL 6 [none, some X, none, none, none, some O, some X, none, none] O X = (some 4, 0) := by
  rw [minimaxL_succ 5 [none, some X, none, none, none, some O, some X, none, none] O X [0, 2, 3, 4, 7, 8] rfl rfl (List.cons_ne_nil _ _)]
  show pickBest [(0, (minimaxL 5 [some O, some X, none, none, none, some O, some X, none, none] X O).2), (2, (minimaxL 5 [none, some X, some O, none, none, some O, some X, none, none] X O).2), (3, (minimaxL 5 [none, some X, none, some O, none, some O, some X, none, none] X O).2), (4, (minimaxL 5 [none, some X, none, none, some O, some O, some X, none, none] X O).2), (7, (minimaxL 5 [none, some X, none, none, none, some O, some X, some O, none] X O).2), (8, (minimaxL 5 [none, some X, none, none, none, some O, some X, none, some O] X O).2)] O = (some 4, 0)
  rw [mmv_1681, mmv_1904, mmv_2033, mmv_2188, mmv_2291, mmv_2297]
  rfl

theorem mmv_2304 : minimaxL 5 [none, some X, none, none, none, some O, some O, some X, none] X O = (some 4, 1) := rfl

theorem mmv_2305 : minimaxL 5 [none, some X, none, none, none, some O, none, some X, some O] X O = (some 4, 1) := rfl

theorem mmv_2303 : minimaxL 6 [none, some X, none, none, none, some O, none, some X, none] O X = (some 4, -1) := by
  rw [minimaxL_succ 5 [none, some X, none, none, none, some O, none, some X, none] O X [0, 2, 3, 4, 6, 8] rfl rfl (List.cons_ne_nil _ _)]
  show pickBest [(0, (minimaxL 5 [some O, some X, none, none, none, some O, none, some X, none] X O).2), (2, (minimaxL 5 [none, some X, some O, none, none, some O, none, some X, none] X O).2), (3, (minimaxL 5 [none, some X, none, some O, none, some O, none, some X, none] X O).2), (4, (minimaxL 5 [none, some X, none, none, some O, some O, none, some X, none] X O).2), (6, (minimaxL 5 [none, some X, none, none, none, some O, some O, some X, none] X O).2), (8, (minimaxL 5 [none, some X, none, none, none, some O, none, some X, some O] X O).2)] O = (some 4, -1)
  rw [mmv_1705, mmv_1919, mmv_2064, mmv_2210, mmv_2304, mmv_2305]
  rfl

theorem mmv_2309 : minimaxL 3 [some X, some X, none, none, some O, some O, some O, none, some X] X O = (some 2, 1) := rfl

theorem mmv_2310 : minimaxL 3 [some X, some X, none, none, none, some O, some O, some O, some X] X O = (some 2, 1) := rfl

theorem mmv_2308 : minimaxL 4 [some X, some X, none, none, none, some O, some O, none, some X] O X = (some 2, 1) := by
  rw [minimaxL_succ 3 [some X, some X, none, none, none, some O, some O, none, some X] O X [2, 3, 4, 7] rfl rfl (List.cons_ne_nil _ _)]
  show pickBest [(2, (minimaxL 3 [some X, some X, some O, none, none, some O, some O, none, some X] X O).2), (3, (minimaxL 3 [some X, some X, none, some O, none, some O, some O, none, some X] X O).2), (4, (minimaxL 3 [some X, some X, none, none, some O, some O, some O, none, some X] X O).2), (7, (minimaxL 3 [some X, some X, none, none, none, some O, some O, some O, some X] X O).2)] O = (some 2, 1)
  rw [mmv_0541, mmv_2079, mmv_2309, mmv_2310]
  rfl

theorem mmv_2312 : minimaxL 3 [none, some X, some X, some O, none, some O, some O, none, some X] X O = (some 0, 1) := rfl

theorem mmv_2313 : minimaxL 3 [none, some X, some X, none, none, some O, some O, some O, some X] X O = (some 0, 1) := rfl

theorem mmv_2311 : minimaxL 4 [none, some X, some X, none, none, some O, some O, none, some X] O X = (some 0, 0) := by
  rw [minimaxL_succ 3 [none, some X, some X, none, none, some O, some O, none, some X] O X [0, 3, 4, 7] rfl rfl (List.cons_ne_nil _ _)]
  show pickBest [(0, (minimaxL 3 [some O, some X, some X, none, none, some O, some O, none, some X] X O).2), (3, (minimaxL 3 [none, some X, some X, some O, none, some O, some O, none, some X] X O).2), (4, (minimaxL 3 [none, some X, some X, none, some O, some O, some O, none, some X] X O).2), (7, (minimaxL 3 [none, some X, some X, none, none, some O, some O, some O, some X] X O).2)] O = (some 0, 0)
  rw [mmv_1311, mmv_2312, mmv_2229, mmv_2313]
  rfl

theorem mmv_2314 : minimaxL 4 [none, some X, none, none, some X, some O, some O, none, some X] O X = (some 0, 1) := by
  rw [minimaxL_succ 3 [none, some X, none, none, some X, some O, some O, none, some X] O X [0, 2, 3, 7] rfl rfl (List.cons_ne_nil _ _)]
  show pickBest [(0, (minimaxL 3 [some O, some X, none, none, some X, some O, some O, none, some X] X O).2), (2, (minimaxL 3 [none, some X, some O, none, some X, some O, some O, none, some X] X O).2), (3, (minimaxL 3 [none, some X, none, some O, some X, some O, some O, none, some X] X O).2), (7, (minimaxL 3 [none, some X, none, none, some X, some O, some O, some O, some X] X O).2)] O = (some 0, 1)
  rw [mmv_1725, mmv_1934, mmv_2074, mmv_2288]
  rfl

theorem mmv_2316 : minimaxL 3 [none, some X, none, some O, none, some O, some O, some X, some X] X O = (some 4, 1) := rfl

theorem mmv_2318 : minimaxL 2 [none, some X, some X, none, some O, some O, some O, some X, some X] O X = (some 3, -1) := rfl

theorem mmv_2317 : minimaxL 3 [none, some X, none, none, some O, some O, some O, some X, some X] X O = (some 3, -1) := by
  rw [minimaxL_succ 2 [none, some X, none, none, some O, some O, some O, some X, some X] X O [0, 2, 3] rfl rfl (List.cons_ne_nil _ _)]
  show pickBest [(0, (minimaxL 2 [some X, some X, none, none, some O, some O, some O, some X, some X] O X).2), (2, (minimaxL 2 [none, some X, some X, none, some O, some O, some O, some X, some X] O X).2), (3, (minimaxL 2 [none, some X, none, some X, some O, some O, some O, some X, some X] O X).2)] X = (some 3, -1)
  rw [mmv_1136, mmv_2318, mmv_2117]
  rfl

theorem mmv_2315 : minimaxL 4 [none, some X, none, none, none, some O, some O, some X, some X] O X = (some 4, -1) := by
  rw [minimaxL_succ 3 [none, some X, none, none, none, some O, some O, some X, some X] O X [0, 2, 3, 4] rfl rfl (List.cons_ne_nil _ _)]
  show pickBest [(0, (minimaxL 3 [some O, some X, none, none, none, some O, some O, some X, some X] X O).2), (2, (minimaxL 3 [none, some X, some O, none, none, some O, some O, some X, some X] X O).2), (3, (minimaxL 3 [none, some X, none, some O, none, some O, some O, some X, some X] X O).2), (4, (minimaxL 3 [none, some X, none, none, some O, some O, some O, some X, some X] X O).2)] O = (some 4, -1)
  rw [mmv_1728, mmv_1937, mmv_2316, mmv_2317]
  rfl

theorem mmv_2307 : minimaxL 5 [none, some X, none, none, none, some O, some O, none, some X] X O = (some 4, 1) := by
  rw [minimaxL_succ 4 [none, some X, none, none, none, some O, some O, none, some X] X O [0, 2, 3, 4, 7] rfl rfl (List.cons_ne_nil _ _)]
  show pickBest [(0, (minimaxL 4 [some X, some X, none, none, none, some O, some O, none, some X] O X).2), (2, (minimaxL 4 [none, some X, some X, none, none, some O, some O, none, some X] O X).2), (3, (minimaxL 4 [none, some X, none, some X, none, some O, some O, none, some X] O X).2), (4, (minimaxL 4 [none, some X, none, none, some X, some O, some O, none, some X] O X).2), (7, (minimaxL 4 [none, some X, none, none, none, some O, some O, some X, some X] O X).2)] X = (some 4, 1)
  rw [mmv_2308, mmv_2311, mmv_2253, mmv_2314, mmv_2315]
  rfl

theorem mmv_2320 : minimaxL 4 [some X, some X, none, none, none, some O, none, some O, some X] O X = (some 2, 1) := by
  rw [minimaxL_succ 3 [some X, some X, none, none, none, some O, none, some O, some X] O X [2, 3, 4, 6] rfl rfl (List.cons_ne_nil _ _)]
  show pickBest [(2, (minimaxL 3 [some X, some X, some O, none, none, some O, none, some O, some X] X O).2), (3, (minimaxL 3 [some X, some X, none, some O, none, some O, none, some O, some X] X O).2), (4, (minimaxL 3 [some X, some X, none, none, some O, some O, none, some O, some X] X O).2), (6, (minimaxL 3 [some X, some X, none, none, none, some O, some O, some O, some X] X O).2)] O = (some 2, 1)
  rw [mmv_0542, mmv_2086, mmv_1065, mmv_2310]
  rfl

theorem mmv_2321 : minimaxL 4 [none, some X, some X, none, none, some O, none, some O, some X] O X = (some 0, 0) := by
  rw [minimaxL_succ 3 [none, some X, some X, none, none, some O, none, some O, some X] O X [0, 3, 4, 6] rfl rfl (List.cons_ne_nil _ _)]
  show pickBest [(0, (minimaxL 3 [some O, some X, some X, none, none, some O, none, some O, some X] X O).2), (3, (minimaxL 3 [none, some X, some X, some O, none, some O, none, some O, some X] X O).2), (4, (minimaxL 3 [none, some X, some X, none, some O, some O, none, some O, some X] X O).2), (6, (minimaxL 3 [none, some X, some X, none, none, some O, some O, some O, some X] X O).2)] O = (some 0, 0)
  rw [mmv_1314, mmv_2089, mmv_2233, mmv_2313]
  rfl

theorem mmv_2319 : minimaxL 5 [none, some X, none, none, none, some O, none, some O, some X] X O = (some 0, 1) := by
  rw [minimaxL_succ 4 [none, some X, none, none, none, some O, none, some O, some X] X O [0, 2, 3, 4, 6] rfl rfl (List.cons_ne_nil _ _)]
  show pickBest [(0, (minimaxL 4 [some X, some X, none, none, none, some O, none, some O, some X] O X).2), (2, (minimaxL 4 [none, some X, some X, none, none, some O, none, some O, some X] O X).2), (3, (minimaxL 4 [none, some X, none, some X, none, some O, none, some O, some X] O X).2), (4, (minimaxL 4 [none, some X, none, none, some X, some O, none, some O, some X] O X).2), (6, (minimaxL 4 [none, some X, none, none, none, some O, some X, some O, some X] O X).2)] X = (some 0, 1)
  rw [mmv_2320, mmv_2321, mmv_2269, mmv_2287, mmv_2296]
  rfl

theorem mmv_2306 : minimaxL 6 [none, some X, none, none, none, some O, none, none, some X] O X = (some 4, 0) := by
  rw [minimaxL_succ 5 [none, some X, none, none, none, some O, none, none, some X] O X [0, 2, 3, 4, 6, 7] rfl rfl (List.cons_ne_nil _ _)]
  show pickBest [(0, (minimaxL 5 [some O, some X, none, none, none, some O, none, none, some X] X O).2), (2, (minimaxL 5 [none, some X, some O, none, none, some O, none, none, some X] X O).2), (3, (minimaxL 5 [none, some X, none, some O, none, some O, none, none, some X] X O).2), (4, (minimaxL 5 [none, some X, none, none, some O, some O, none, none, some X] X O).2), (6, (minimaxL 5 [none, some X, none, none, none, some O, some O, none, some X] X O).2), (7, (minimaxL 5 [none, some X, none, none, none, some O, none, some O, some X] X O).2)] O = (some 4, 0)
  rw [mmv_1722, mmv_1932, mmv_2070, mmv_2224, mmv_2307, mmv_2319]
  rfl

theorem mmv_2234 : minimaxL 7 [none, some X, none, none, none, some O, none, none, none] X O = (some 4, 1) := by
  rw [minimaxL_succ 6 [none, some X, none, none, none, some O, none, none, none] X O [0, 2, 3, 4, 6, 7, 8] rfl rfl (List.cons_ne_nil _ _)]
  show pickBest [(0, (minimaxL 6 [some X, some X, none, none, none, some O, none, none, none] O X).2), (2, (minimaxL 6 [none, some X, some X, none, none, some O, none, none, none] O X).2), (3, (minimaxL 6 [none, some X, none, some X, none, some O, none, none, none] O X).2), (4, (minimaxL 6 [none, some X, none, none, some X, some O, none, none, none] O X).2), (6, (minimaxL 6 [none, some X, none, none, none, some O, some X, none, none] O X).2), (7, (minimaxL 6 [none, some X, none, none, none, some O, none, some X, none] O X).2), (8, (minimaxL 6 [none, some X, none, none, none, some O, none, none, some X] O X).2)] X = (some 4, 1)
  rw [mmv_1071, mmv_2235, mmv_2239, mmv_2276, mmv_2290, mmv_2303, mmv_2306]
  rfl

theorem mmv_2324 : minimaxL 5 [none, some X, some X, none, none, none, some O, some O, none] X O = (some 0, 1) := rfl

theorem mmv_2325 : minimaxL 5 [none, some X, some X, none, none, none, some O, none, some O] X O = (some 0, 1) := rfl

theorem mmv_2323 : minimaxL 6 [none, some X, some X, none, none, none, some O, none, none] O X = (some 0, -1) := by
  rw [minimaxL_succ 5 [none, some X, some X, none, none, none, some O, none, none] O X [0, 3, 4, 5, 7, 8] rfl rfl (List.cons_ne_nil _ _)]
  show pickBest [(0, (minimaxL 5 [some O, some X, some X, none, none, none, some O, none, none] X O).2), (3, (minimaxL 5 [none, some X, some X, some O, none, none, some O, none, none] X O).2), (4, (minimaxL 5 [none, some X, some X, none, some O, none, some O, none, none] X O).2), (5, (minimaxL 5 [none, some X, some X, none, none, some O, some O, none, none] X O).2), (7, (minimaxL 5 [none, some X, some X, none, none, none, some O, some O, none] X O).2), (8, (minimaxL 5 [none, some X, some X, none, none, none, some O, none, some O] X O).2)] O = (some 0, -1)
  rw [mmv_1321, mmv_1946, mmv_2094, mmv_2236, mmv_2324, mmv_2325]
  rfl

theorem mmv_2328 : minimaxL 4 [none, some X, some X, some X, none, none, some O, some O, none] O X = (some 8, -1) := rfl

theorem mmv_2329 : minimaxL 4 [none, some X, none, some X, some X, none, some O, some O, none] O X = (some 8, -1) := rfl

theorem mmv_2330 : minimaxL 4 [none, some X, none, some X, none, some X, some O, some O, none] O X = (some 8, -1) := rfl

theorem mmv_2331 : minimaxL 4 [none, some X, none, some X, none, none, some O, some O, some X] O X = (some 0, 1) := by
  rw [minimaxL_succ 3 [none, some X, none, some X, none, none, some O, some O, some X] O X [0, 2, 4, 5] rfl rfl (List.cons_ne_nil _ _)]
  show pickBest [(0, (minimaxL 3 [some O, some X, none, some X, none, none, some O, some O, some X] X O).2), (2, (minimaxL 3 [none, some X, some O, some X, none, none, some O, some O, some X] X O).2), (4, (minimaxL 3 [none, some X, none, some X, some O, none, some O, some O, some X] X O).2), (5, (minimaxL 3 [none, some X, none, some X, none, some O, some O, some O, some X] X O).2)] O = (some 0, 1)
  rw [mmv_1501, mmv_1789, mmv_2156, mmv_2254]
  rfl

theorem mmv_2327 : minimaxL 5 [none, some X, none, some X, none, none, some O, some O, none] X O = (some 8, 1) := by
  rw [minimaxL_succ 4 [none, some X, none, some X, none, none, some O, some O, none] X O [0, 2, 4, 5, 8] rfl rfl (List.cons_ne_nil _ _)]
  show pickBest [(0, (minimaxL 4 [some X, some X, none, some X, none, none, some O, some O, none] O X).2), (2, (minimaxL 4 [none, some X, some X, some X, none, none, some O, some O, none] O X).2), (4, (minimaxL 4 [none, some X, none, some X, some X, none, some O, some O, none] O X).2), (5, (minimaxL 4 [none, some X, none, some X, none, some X, some O, some O, none] O X).2), (8, (minimaxL 4 [none, some X, none, some X, none, none, some O, some O, some X] O X).2)] X = (some 8, 1)
  rw [mmv_1155, mmv_2328, mmv_2329, mmv_2330, mmv_2331]
  rfl

theorem mmv_2333 : minimaxL 4 [none, some X, some X, some X, none, none, some O, none, some O] O X = (some 7, -1) := rfl

theorem mmv_2334 : minimaxL 4 [none, some X, none, some X, some X, none, some O, none, some O] O X = (some 7, -1) := rfl

theorem mmv_2335 : minimaxL 4 [none, some X, none, some X, none, some X, some O, none, some O] O X = (some 7, -1) := rfl

theorem mmv_2337 : minimaxL 3 [none, some X, some O, some X, none, none, some O, some X, some O] X O = (some 4, 1) := rfl

theorem mmv_2339 : minimaxL 2 [none, some X, some X, some X, some O, none, some O, some X, some O] O X = (some 0, -1) := rfl

theorem mmv_2340 : minimaxL 2 [none, some X, none, some X, some O, some X, some O, some X, some O] O X = (some 2, -1) := rfl

theorem mmv_2338 : minimaxL 3 [none, some X, none, some X, some O, none, some O, some X, some O] X O = (some 5, -1) := by
  rw [minimaxL_succ 2 [none, some X, none, some X, some O, none, some O, some X, some O] X O [0, 2, 5] rfl rfl (List.cons_ne_nil _ _)]
  show pickBest [(0, (minimaxL 2 [some X, some X, none, some X, some O, none, some O, some X, some O] O X).2), (2, (minimaxL 2 [none, some X, some X, some X, some O, none, some O, some X, some O] O X).2), (5, (minimaxL 2 [none, some X, none, some X, some O, some X, some O, some X, some O] O X).2)] X = (some 5, -1)
  rw [mmv_1039, mmv_2339, mmv_2340]
  rfl

theorem mmv_2336 : minimaxL 4 [none, some X, none, some X, none, none, some O, some X, some O] O X = (some 4, -1) := by
  rw [minimaxL_succ 3 [none, some X, none, some X, none, none, some O, some X, some O] O X [0, 2, 4, 5] rfl rfl (List.cons_ne_nil _ _)]
  show pickBest [(0, (minimaxL 3 [some O, some X, none, some X, none, none, some O, some X, some O] X O).2), (2, (minimaxL 3 [none, some X, some O, some X, none, none, some O, some X, some O] X O).2), (4, (minimaxL 3 [none, some X, none, some X, some O, none, some O, some X, some O] X O).2), (5, (minimaxL 3 [none, some X, none, some X, none, some O, some O, some X, some O] X O).2)] O = (some 4, -1)
  rw [mmv_1499, mmv_2337, mmv_2338, mmv_2252]
  rfl

theorem mmv_2332 : minimaxL 5 [none, some X, none, some X, none, none, some O, none, some O] X O = (some 7, -1) := by
  rw [minimaxL_succ 4 [none, some X, none, some X, none, none, some O, none, some O] X O [0, 2, 4, 5, 7] rfl rfl (List.cons_ne_nil _ _)]
  show pickBest [(0, (minimaxL 4 [some X, some X, none, some X, none, none, some O, none, some O] O X).2), (2, (minimaxL 4 [none, some X, some X, some X, none, none, some O, none, some O] O X).2), (4, (minimaxL 4 [none, some X, none, some X, some X, none, some O, none, some O] O X).2), (5, (minimaxL 4 [none, some X, none, some X, none, some X, some O, none, some O] O X).2), (7, (minimaxL 4 [none, some X, none, some X, none, none, some O, some X, some O] O X).2)] X = (some 7, -1)
  rw [mmv_1166, mmv_2333, mmv_2334, mmv_2335, mmv_2336]
  rfl

theorem mmv_2326 : minimaxL 6 [none, some X, none, some X, none, none, some O, none, none] O X = (some 8, -1) := by
  rw [minimaxL_succ 5 [none, some X, none, some X, none, none, some O, none, none] O X [0, 2, 4, 5, 7, 8] rfl rfl (List.cons_ne_nil _ _)]
  show pickBest [(0, (minimaxL 5 [some O, some X, none, some X, none, none, some O, none, none] X O).2), (2, (minimaxL 5 [none, some X, some O, some X, none, none, some O, none, none] X O).2), (4, (minimaxL 5 [none, some X, none, some X, some O, none, some O, none, none] X O).2), (5, (minimaxL 5 [none, some X, none, some X, none, some O, some O, none, none] X O).2), (7, (minimaxL 5 [none, some X, none, some X, none, none, some O, some O, none] X O).2), (8, (minimaxL 5 [none, some X, none, some X, none, none, some O, none, some O] X O).2)] O = (some 8, -1)
  rw [mmv_1488, mmv_1762, mmv_2131, mmv_2240, mmv_2327, mmv_2332]
  rfl

theorem mmv_2343 : minimaxL 4 [some X, some X, none, none, some X, none, some O, some O, none] O X = (some 8, -1) := rfl

theorem mmv_2344 : minimaxL 4 [none, some X, some X, none, some X, none, some O, some O, none] O X = (some 8, -1) := rfl

theorem mmv_2345 : minimaxL 4 [none, some X, none, none, some X, some X, some O, some O, none] O X = (some 8, -1) := rfl

theorem mmv_2346 : minimaxL 4 [none, some X, none, none, some X, none, some O, some O, some X] O X = (some 0, 0) := by
  rw [minimaxL_succ 3 [none, some X, none, none, some X, none, some O, some O, some X] O X [0, 2, 3, 5] rfl rfl (List.cons_ne_nil _ _)]
  show pickBest [(0, (minimaxL 3 [some O, some X, none, none, some X, none, some O, some O, some X] X O).2), (2, (minimaxL 3 [none, some X, some O, none, some X, none, some O, some O, some X] X O).2), (3, (minimaxL 3 [none, some X, none, some O, some X, none, some O, some O, some X] X O).2), (5, (minimaxL 3 [none, some X, none, none, some X, some O, some O, some O, some X] X O).2)] O = (some 0, 0)
  rw [mmv_1560, mmv_1827, mmv_1973, mmv_2288]
  rfl

theorem mmv_2342 : minimaxL 5 [none, some X, none, none, some X, none, some O, some O, none] X O = (some 8, 0) := by
  rw [minimaxL_succ 4 [none, some X, none, none, some X, none, some O, some O, none] X O [0, 2, 3, 5, 8] rfl rfl (List.cons_ne_nil _ _)]
  show pickBest [(0, (minimaxL 4 [some X, some X, none, none, some X, none, some O, some O, none] O X).2), (2, (minimaxL 4 [none, some X, some X, none, some X, none, some O, some O, none] O X).2), (3, (minimaxL 4 [none, some X, none, some X, some X, none, some O, some O, none] O X).2), (5, (minimaxL 4 [none, some X, none, none, some X, some X, some O, some O, none] O X).2), (8, (minimaxL 4 [none, some X, none, none, some X, none, some O, some O, some X] O X).2)] X = (some 8, 0)
  rw [mmv_2343, mmv_2344, mmv_2329, mmv_2345, mmv_2346]
  rfl

theorem mmv_2347 : minimaxL 5 [none, some X, none, none, some X, none, some O, none, some O] X O = (some 7, 1) := rfl

theorem mmv_2341 : minimaxL 6 [none, some X, none, none, some X, none, some O, none, none] O X = (some 7, 0) := by
  rw [minimaxL_succ 5 [none, some X, none, none, some X, none, some O, none, none] O X [0, 2, 3, 5, 7, 8] rfl rfl (List.cons_ne_nil _ _)]
  show pickBest [(0, (minimaxL 5 [some O, some X, none, none, some X, none, some O, none, none] X O).2), (2, (minimaxL 5 [none, some X, some O, none, some X, none, some O, none, none] X O).2), (3, (minimaxL 5 [none, some X, none, some O, some X, none, some O, none, none] X O).2), (5, (minimaxL 5 [none, some X, none, none, some X, some O, some O, none, none] X O).2), (7, (minimaxL 5 [none, some X, none, none, some X, none, some O, some O, none] X O).2), (8, (minimaxL 5 [none, some X, none, none, some X, none, some O, none, some O] X O).2)] O = (some 7, 0)
  rw [mmv_1526, mmv_1804, mmv_1951, mmv_2277, mmv_2342, mmv_2347]
  rfl

theorem mmv_2350 : minimaxL 4 [none, some X, some X, none, none, some X, some O, some O, none] O X = (some 8, -1) := rfl

theorem mmv_2351 : minimaxL 4 [none, some X, none, none, none, some X, some O, some O, some X] O X = (some 0, 1) := by
  rw [minimaxL_succ 3 [none, some X, none, none, none, some X, some O, some O, some X] O X [0, 2, 3, 4] rfl rfl (List.cons_ne_nil _ _)]
  show pickBest [(0, (minimaxL 3 [some O, some X, none, none, none, some X, some O, some O, some X] X O).2), (2, (minimaxL 3 [none, some X, some O, none, none, some X, some O, some O, some X] X O).2), (3, (minimaxL 3 [none, some X, none, some O, none, some X, some O, some O, some X] X O).2), (4, (minimaxL 3 [none, some X, none, none, some O, some X, some O, some O, some X] X O).2)] O = (some 0, 1)
  rw [mmv_1640, mmv_1875, mmv_2015, mmv_2182]
  rfl

theorem mmv_2349 : minimaxL 5 [none, some X, none, none, none, some X, some O, some O, none] X O = (some 8, 1) := by
  rw [minimaxL_succ 4 [none, some X, none, none, none, some X, some O, some O, none] X O [0, 2, 3, 4, 8] rfl rfl (List.cons_ne_nil _ _)]
  show pickBest [(0, (minimaxL 4 [some X, some X, none, none, none, some X, some O, some O, none] O X).2), (2, (minimaxL 4 [none, some X, some X, none, none, some X, some O, some O, none] O X).2), (3, (minimaxL 4 [none, some X, none, some X, none, some X, some O, some O, none] O X).2), (4, (minimaxL 4 [none, some X, none, none, some X, some X, some O, some O, none] O X).2), (8, (minimaxL 4 [none, some X, none, none, none, some X, some O, some O, some X] O X).2)] X = (some 8, 1)
  rw [mmv_1183, mmv_2350, mmv_2330, mmv_2345, mmv_2351]
  rfl

theorem mmv_2353 : minimaxL 4 [none, some X, some X, none, none, some X, some O, none, some O] O X = (some 7, -1) := rfl

theorem mmv_2354 : minimaxL 4 [none, some X, none, none, some X, some X, some O, none, some O] O X = (some 7, -1) := rfl

theorem mmv_2356 : minimaxL 3 [some O, some X, none, none, none, some X, some O, some X, some O] X O = (some 4, 1) := rfl

theorem mmv_2358 : minimaxL 2 [none, some X, some X, none, some O, some X, some O, some X, some O] O X = (some 0, -1) := rfl

theorem mmv_2357 : minimaxL 3 [none, some X, none, none, some O, some X, some O, some X, some O] X O = (some 3, -1) := by
  rw [minimaxL_succ 2 [none, some X, none, none, some O, some X, some O, some X, some O] X O [0, 2, 3] rfl rfl (List.cons_ne_nil _ _)]
  show pickBest [(0, (minimaxL 2 [some X, some X, none, none, some O, some X, some O, some X, some O] O X).2), (2, (minimaxL 2 [none, some X, some X, none, some O, some X, some O, some X, some O] O X).2), (3, (minimaxL 2 [none, some X, none, some X, some O, some X, some O, some X, some O] O X).2)] X = (some 3, -1)
  rw [mmv_1001, mmv_2358, mmv_2340]
  rfl

theorem mmv_2355 : minimaxL 4 [none, some X, none, none, none, some X, some O, some X, some O] O X = (some 4, -1) := by
  rw [minimaxL_succ 3 [none, some X, none, none, none, some X, some O, some X, some O] O X [0, 2, 3, 4] rfl rfl (List.cons_ne_nil _ _)]
  show pickBest [(0, (minimaxL 3 [some O, some X, none, none, none, some X, some O, some X, some O] X O).2), (2, (minimaxL 3 [none, some X, some O, none, none, some X, some O, some X, some O] X O).2), (3, (minimaxL 3 [none, some X, none, some O, none, some X, some O, some X, some O] X O).2), (4, (minimaxL 3 [none, some X, none, none, some O, some X, some O, some X, some O] X O).2)] O = (some 4, -1)
  rw [mmv_2356, mmv_1882, mmv_2027, mmv_2357]
  rfl

theorem mmv_2352 : minimaxL 5 [none, some X, none, none, none, some X, some O, none, some O] X O = (some 7, -1) := by
  rw [minimaxL_succ 4 [none, some X, none, none, none, some X, some O, none, some O] X O [0, 2, 3, 4, 7] rfl rfl (List.cons_ne_nil _ _)]
  show pickBest [(0, (minimaxL 4 [some X, some X, none, none, none, some X, some O, none, some O] O X).2), (2, (minimaxL 4 [none, some X, some X, none, none, some X, some O, none, some O] O X).2), (3, (minimaxL 4 [none, some X, none, some X, none, some X, some O, none, some O] O X).2), (4, (minimaxL 4 [none, some X, none, none, some X, some X, some O, none, some O] O X).2), (7, (minimaxL 4 [none, some X, none, none, none, some X, some O, some X, some O] O X).2)] X = (some 7, -1)
  rw [mmv_1189, mmv_2353, mmv_2335, mmv_2354, mmv_2355]
  rfl

theorem mmv_2348 : minimaxL 6 [none, some X, none, none, none, some X, some O, none, none] O X = (some 0, -1) := by
  rw [minimaxL_succ 5 [none, some X, none, none, none, some X, some O, none, none] O X [0, 2, 3, 4, 7, 8] rfl rfl (List.cons_ne_nil _ _)]
  show pickBest [(0, (minimaxL 5 [some O, some X, none, none, none, some X, some O, none, none] X O).2), (2, (minimaxL 5 [none, some X, some O, none, none, some X, some O, none, none] X O).2), (3, (minimaxL 5 [none, some X, none, some O, none, some X, some O, none, none] X O).2), (4, (minimaxL 5 [none, some X, none, none, some O, some X, some O, none, none] X O).2), (7, (minimaxL 5 [none, some X, none, none, none, some X, some O, some O, none] X O).2), (8, (minimaxL 5 [none, some X, none, none, none, some X, some O, none, some O] X O).2)] O = (some 0, -1)
  rw [mmv_1628, mmv_1864, mmv_2002, mmv_2167, mmv_2349, mmv_2352]
  rfl

theorem mmv_2360 : minimaxL 5 [none, some X, none, none, none, none, some O, some X, some O] X O = (some 4, 1) := rfl

theorem mmv_2359 : minimaxL 6 [none, some X, none, none, none, none, some O, some X, none] O X = (some 4, -1) := by
  rw [minimaxL_succ 5 [none, some X, none, none, none, none, some O, some X, none] O X [0, 2, 3, 4, 5, 8] rfl rfl (List.cons_ne_nil _ _)]
  show pickBest [(0, (minimaxL 5 [some O, some X, none, none, none, none, some O, some X, none] X O).2), (2, (minimaxL 5 [none, some X, some O, none, none, none, some O, some X, none] X O).2), (3, (minimaxL 5 [none, some X, none, some O, none, none, some O, some X, none] X O).2), (4, (minimaxL 5 [none, some X, none, none, some O, none, some O, some X, none] X O).2), (5, (minimaxL 5 [none, some X, none, none, none, some O, some O, some X, none] X O).2), (8, (minimaxL 5 [none, some X, none, none, none, none, some O, some X, some O] X O).2)] O = (some 4, -1)
  rw [mmv_1706, mmv_1920, mmv_2065, mmv_2213, mmv_2304, mmv_2360]
  rfl

theorem mmv_2363 : minimaxL 4 [some X, some X, none, none, none, none, some O, some O, some X] O X = (some 2, 1) := by
  rw [minimaxL_succ 3 [some X, some X, none, none, none, none, some O, some O, some X] O X [2, 3, 4, 5] rfl rfl (List.cons_ne_nil _ _)]
  show pickBest [(2, (minimaxL 3 [some X, some X, some O, none, none, none, some O, some O, some X] X O).2), (3, (minimaxL 3 [some X, some X, none, some O, none, none, some O, some O, some X] X O).2), (4, (minimaxL 3 [some X, some X, none, none, some O, none, some O, some O, some X] X O).2), (5, (minimaxL 3 [some X, some X, none, none, none, some O, some O, some O, some X] X O).2)] O = (some 2, 1)
  rw [mmv_0587, mmv_2080, mmv_1066, mmv_2310]
  rfl

theorem mmv_2364 : minimaxL 4 [none, some X, some X, none, none, none, some O, some O, some X] O X = (some 0, 1) := by
  rw [minimaxL_succ 3 [none, some X, some X, none, none, none, some O, some O, some X] O X [0, 3, 4, 5] rfl rfl (List.cons_ne_nil _ _)]
  show pickBest [(0, (minimaxL 3 [some O, some X, some X, none, none, none, some O, some O, some X] X O).2), (3, (minimaxL 3 [none, some X, some X, some O, none, none, some O, some O, some X] X O).2), (4, (minimaxL 3 [none, some X, some X, none, some O, none, some O, some O, some X] X O).2), (5, (minimaxL 3 [none, some X, some X, none, none, some O, some O, some O, some X] X O).2)] O = (some 0, 1)
  rw [mmv_1371, mmv_2090, mmv_2230, mmv_2313]
  rfl

theorem mmv_2362 : minimaxL 5 [none, some X, none, none, none, none, some O, some O, some X] X O = (some 5, 1) := by
  rw [minimaxL_succ 4 [none, some X, none, none, none, none, some O, some O, some X] X O [0, 2, 3, 4, 5] rfl rfl (List.cons_ne_nil _ _)]
  show pickBest [(0, (minimaxL 4 [some X, some X, none, none, none, none, some O, some O, some X] O X).2), (2, (minimaxL 4 [none, some X, some X, none, none, none, some O, some O, some X] O X).2), (3, (minimaxL 4 [none, some X, none, some X, none, none, some O, some O, some X] O X).2), (4, (minimaxL 4 [none, some X, none, none, some X, none, some O, some O, some X] O X).2), (5, (minimaxL 4 [none, some X, none, none, none, some X, some O, some O, some X] O X).2)] X = (some 5, 1)
  rw [mmv_2363, mmv_2364, mmv_2331, mmv_2346, mmv_2351]
  rfl

theorem mmv_2361 : minimaxL 6 [none, some X, none, none, none, none, some O, none, some X] O X = (some 0, 0) := by
  rw [minimaxL_succ 5 [none, some X, none, none, none, none, some O, none, some X] O X [0, 2, 3, 4, 5, 7] rfl rfl (List.cons_ne_nil _ _)]
  show pickBest [(0, (minimaxL 5 [some O, some X, none, none, none, none, some O, none, some X] X O).2), (2, (minimaxL 5 [none, some X, some O, none, none, none, some O, none, some X] X O).2), (3, (minimaxL 5 [none, some X, none, some O, none, none, some O, none, some X] X O).2), (4, (minimaxL 5 [none, some X, none, none, some O, none, some O, none, some X] X O).2), (5, (minimaxL 5 [none, some X, none, none, none, some O, some O, none, some X] X O).2), (7, (minimaxL 5 [none, some X, none, none, none, none, some O, some O, some X] X O).2)] O = (some 0, 0)
  rw [mmv_1729, mmv_1938, mmv_2076, mmv_2226, mmv_2307, mmv_2362]
  rfl

theorem mmv_2322 : minimaxL 7 [none, some X, none, none, none, none, some O, none, none] X O = (some 0, 1) := by
  rw [minimaxL_succ 6 [none, some X, none, none, none, none, some O, none, none] X O [0, 2, 3, 4, 5, 7, 8] rfl rfl (List.cons_ne_nil _ _)]
  show pickBest [(0, (minimaxL 6 [some X, some X, none, none, none, none, some O, none, none] O X).2), (2, (minimaxL 6 [none, some X, some X, none, none, none, some O, none, none] O X).2), (3, (minimaxL 6 [none, some X, none, some X, none, none, some O, none, none] O X).2), (4, (minimaxL 6 [none, some X, none, none, some X, none, some O, none, none] O X).2), (5, (minimaxL 6 [none, some X, none, none, none, some X, some O, none, none] O X).2), (7, (minimaxL 6 [none, some X, none, none, none, none, some O, some X, none] O X).2), (8, (minimaxL 6 [none, some X, none, none, none, none, some O, none, some X] O X).2)] X = (some 0, 1)
  rw [mmv_1147, mmv_2323, mmv_2326, mmv_2341, mmv_2348, mmv_2359, mmv_2361]
  rfl

theorem mmv_2367 : minimaxL 5 [none, some X, some X, none, none, none, none, some O, some O] X O = (some 0, 1) := rfl

theorem mmv_2366 : minimaxL 6 [none, some X, some X, none, none, none, none, some O, none] O X = (some 0, 0) := by
  rw [minimaxL_succ 5 [none, some X, some X, none, none, none, none, some O, none] O X [0, 3, 4, 5, 6, 8] rfl rfl (List.cons_ne_nil _ _)]
  show pickBest [(0, (minimaxL 5 [some O, some X, some X, none, none, none, none, some O, none] X O).2), (3, (minimaxL 5 [none, some X, some X, some O, none, none, none, some O, none] X O).2), (4, (minimaxL 5 [none, some X, some X, none, some O, none, none, some O, none] X O).2), (5, (minimaxL 5 [none, some X, some X, none, none, some O, none, some O, none] X O).2), (6, (minimaxL 5 [none, some X, some X, none, none, none, some O, some O, none] X O).2), (8, (minimaxL 5 [none, some X, some X, none, none, none, none, some O, some O] X O).2)] O = (some 0, 0)
  rw [mmv_1340, mmv_1947, mmv_2095, mmv_2237, mmv_2324, mmv_2367]
  rfl

theorem mmv_2370 : minimaxL 4 [some X, some X, none, some X, none, none, none, some O, some O] O X = (some 6, -1) := rfl

theorem mmv_2371 : minimaxL 4 [none, some X, some X, some X, none, none, none, some O, some O] O X = (some 6, -1) := rfl

theorem mmv_2372 : minimaxL 4 [none, some X, none, some X, some X, none, none, some O, some O] O X = (some 6, -1) := rfl

theorem mmv_2373 : minimaxL 4 [none, some X, none, some X, none, some X, none, some O, some O] O X = (some 6, -1) := rfl

theorem mmv_2374 : minimaxL 4 [none, some X, none, some X, none, none, some X, some O, some O] O X = (some 0, 1) := by
  rw [minimaxL_succ 3 [none, some X, none, some X, none, none, some X, some O, some O] O X [0, 2, 4, 5] rfl rfl (List.cons_ne_nil _ _)]
  show pickBest [(0, (minimaxL 3 [some O, some X, none, some X, none, none, some X, some O, some O] X O).2), (2, (minimaxL 3 [none, some X, some O, some X, none, none, some X, some O, some O] X O).2), (4, (minimaxL 3 [none, some X, none, some X, some O, none, some X, some O, some O] X O).2), (5, (minimaxL 3 [none, some X, none, some X, none, some O, some X, some O, some O] X O).2)] O = (some 0, 1)
  rw [mmv_1513, mmv_1785, mmv_2154, mmv_2268]
  rfl

theorem mmv_2369 : minimaxL 5 [none, some X, none, some X, none, none, none, some O, some O] X O = (some 6, 1) := by
  rw [minimaxL_succ 4 [none, some X, none, some X, none, none, none, some O, some O] X O [0, 2, 4, 5, 6] rfl rfl (List.cons_ne_nil _ _)]
  show pickBest [(0, (minimaxL 4 [some X, some X, none, some X, none, none, none, some O, some O] O X).2), (2, (minimaxL 4 [none, some X, some X, some X, none, none, none, some O, some O] O X).2), (4, (minimaxL 4 [none, some X, none, some X, some X, none, none, some O, some O] O X).2), (5, (minimaxL 4 [none, some X, none, some X, none, some X, none, some O, some O] O X).2), (6, (minimaxL 4 [none, some X, none, some X, none, none, some X, some O, some O] O X).2)] X = (some 6, 1)
  rw [mmv_2370, mmv_2371, mmv_2372, mmv_2373, mmv_2374]
  rfl

theorem mmv_2368 : minimaxL 6 [none, some X, none, some X, none, none, none, some O, none] O X = (some 0, 0) := by
  rw [minimaxL_succ 5 [none, some X, none, some X, none, none, none, some O, none] O X [0, 2, 4, 5, 6, 8] rfl rfl (List.cons_ne_nil _ _)]
  show pickBest [(0, (minimaxL 5 [some O, some X, none, some X, none, none, none, some O, none] X O).2), (2, (minimaxL 5 [none, some X, some O, some X, none, none, none, some O, none] X O).2), (4, (minimaxL 5 [none, some X, none, some X, some O, none, none, some O, none] X O).2), (5, (minimaxL 5 [none, some X, none, some X, none, some O, none, some O, none] X O).2), (6, (minimaxL 5 [none, some X, none, some X, none, none, some O, some O, none] X O).2), (8, (minimaxL 5 [none, some X, none, some X, none, none, none, some O, some O] X O).2)] O = (some 0, 0)
  rw [mmv_1504, mmv_1770, mmv_2138, mmv_2257, mmv_2327, mmv_2369]
  rfl

theorem mmv_2377 : minimaxL 4 [none, some X, some X, none, some X, none, none, some O, some O] O X = (some 6, -1) := rfl

theorem mmv_2378 : minimaxL 4 [none, some X, none, none, some X, some X, none, some O, some O] O X = (some 6, -1) := rfl

theorem mmv_2379 : minimaxL 4 [none, some X, none, none, some X, none, some X, some O, some O] O X = (some 2, 0) := by
  rw [minimaxL_succ 3 [none, some X, none, none, some X, none, some X, some O, some O] O X [0, 2, 3, 5] rfl rfl (List.cons_ne_nil _ _)]
  show pickBest [(0, (minimaxL 3 [some O, some X, none, none, some X, none, some X, some O, some O] X O).2), (2, (minimaxL 3 [none, some X, some O, none, some X, none, some X, some O, some O] X O).2), (3, (minimaxL 3 [none, some X, none, some O, some X, none, some X, some O, some O] X O).2), (5, (minimaxL 3 [none, some X, none, none, some X, some O, some X, some O, some O] X O).2)] O = (some 2, 0)
  rw [mmv_1548, mmv_1821, mmv_1970, mmv_2286]
  rfl

theorem mmv_2376 : minimaxL 5 [none, some X, none, none, some X, none, none, some O, some O] X O = (some 6, 0) := by
  rw [minimaxL_succ 4 [none, some X, none, none, some X, none, none, some O, some O] X O [0, 2, 3, 5, 6] rfl rfl (List.cons_ne_nil _ _)]
  show pickBest [(0, (minimaxL 4 [some X, some X, none, none, some X, none, none, some O, some O] O X).2), (2, (minimaxL 4 [none, some X, some X, none, some X, none, none, some O, some O] O X).2), (3, (minimaxL 4 [none, some X, none, some X, some X, none, none, some O, some O] O X).2), (5, (minimaxL 4 [none, some X, none, none, some X, some X, none, some O, some O] O X).2), (6, (minimaxL 4 [none, some X, none, none, some X, none, some X, some O, some O] O X).2)] X = (some 6, 0)
  rw [mmv_1208, mmv_2377, mmv_2372, mmv_2378, mmv_2379]
  rfl

theorem mmv_2375 : minimaxL 6 [none, some X, none, none, some X, none, none, some O, none] O X = (some 0, 0) := by
  rw [minimaxL_succ 5 [none, some X, none, none, some X, none, none, some O, none] O X [0, 2, 3, 5, 6, 8] rfl rfl (List.cons_ne_nil _ _)]
  show pickBest [(0, (minimaxL 5 [some O, some X, none, none, some X, none, none, some O, none] X O).2), (2, (minimaxL 5 [none, some X, some O, none, some X, none, none, some O, none] X O).2), (3, (minimaxL 5 [none, some X, none, some O, some X, none, none, some O, none] X O).2), (5, (minimaxL 5 [none, some X, none, none, some X, some O, none, some O, none] X O).2), (6, (minimaxL 5 [none, some X, none, none, some X, none, some O, some O, none] X O).2), (8, (minimaxL 5 [none, some X, none, none, some X, none, none, some O, some O] X O).2)] O = (some 0, 0)
  rw [mmv_1527, mmv_1805, mmv_1952, mmv_2278, mmv_2342, mmv_2376]
  rfl

theorem mmv_2382 : minimaxL 4 [none, some X, some X, none, none, some X, none, some O, some O] O X = (some 6, -1) := rfl

theorem mmv_2383 : minimaxL 4 [none, some X, none, none, none, some X, some X, some O, some O] O X = (some 0, 1) := by
  rw [minimaxL_succ 3 [none, some X, none, none, none, some X, some X, some O, some O] O X [0, 2, 3, 4] rfl rfl (List.cons_ne_nil _ _)]
  show pickBest [(0, (minimaxL 3 [some O, some X, none, none, none, some X, some X, some O, some O] X O).2), (2, (minimaxL 3 [none, some X, some O, none, none, some X, some X, some O, some O] X O).2), (3, (minimaxL 3 [none, some X, none, some O, none, some X, some X, some O, some O] X O).2), (4, (minimaxL 3 [none, some X, none, none, some O, some X, some X, some O, some O] X O).2)] O = (some 0, 1)
  rw [mmv_1636, mmv_1871, mmv_2012, mmv_2178]
  rfl

theorem mmv_2381 : minimaxL 5 [none, some X, none, none, none, some X, none, some O, some O] X O = (some 6, 1) := by
  rw [minimaxL_succ 4 [none, some X, none, none, none, some X, none, some O, some O] X O [0, 2, 3, 4, 6] rfl rfl (List.cons_ne_nil _ _)]
  show pickBest [(0, (minimaxL 4 [some X, some X, none, none, none, some X, none, some O, some O] O X).2), (2, (minimaxL 4 [none, some X, some X, none, none, some X, none, some O, some O] O X).2), (3, (minimaxL 4 [none, some X, none, some X, none, some X, none, some O, some O] O X).2), (4, (minimaxL 4 [none, some X, none, none, some X, some X, none, some O, some O] O X).2), (6, (minimaxL 4 [none, some X, none, none, none, some X, some X, some O, some O] O X).2)] X = (some 6, 1)
  rw [mmv_1217, mmv_2382, mmv_2373, mmv_2378, mmv_2383]
  rfl

theorem mmv_2380 : minimaxL 6 [none, some X, none, none, none, some X, none, some O, none] O X = (some 0, 0) := by
  rw [minimaxL_succ 5 [none, some X, none, none, none, some X, none, some O, none] O X [0, 2, 3, 4, 6, 8] rfl rfl (List.cons_ne_nil _ _)]
  show pickBest [(0, (minimaxL 5 [some O, some X, none, none, none, some X, none, some O, none] X O).2), (2, (minimaxL 5 [none, some X, some O, none, none, some X, none, some O, none] X O).2), (3, (minimaxL 5 [none, some X, none, some O, none, some X, none, some O, none] X O).2), (4, (minimaxL 5 [none, some X, none, none, some O, some X, none, some O, none] X O).2), (6, (minimaxL 5 [none, some X, none, none, none, some X, some O, some O, none] X O).2), (8, (minimaxL 5 [none, some X, none, none, none, some X, none, some O, some O] X O).2)] O = (some 0, 0)
  rw [mmv_1632, mmv_1869, mmv_2007, mmv_2174, mmv_2349, mmv_2381]
  rfl

theorem mmv_2386 : minimaxL 4 [some X, some X, none, none, none, none, some X, some O, some O] O X = (some 2, 1) := by
  rw [minimaxL_succ 3 [some X, some X, none, none, none, none, some X, some O, some O] O X [2, 3, 4, 5] rfl rfl (List.cons_ne_nil _ _)]
  show pickBest [(2, (minimaxL 3 [some X, some X, some O, none, none, none, some X, some O, some O] X O).2), (3, (minimaxL 3 [some X, some X, none, some O, none, none, some X, some O, some O] X O).2), (4, (minimaxL 3 [some X, some X, none, none, some O, none, some X, some O, some O] X O).2), (5, (minimaxL 3 [some X, some X, none, none, none, some O, some X, some O, some O] X O).2)] O = (some 2, 1)
  rw [mmv_0581, mmv_0880, mmv_2196, mmv_2293]
  rfl

theorem mmv_2387 : minimaxL 4 [none, some X, some X, none, none, none, some X, some O, some O] O X = (some 0, 1) := by
  rw [minimaxL_succ 3 [none, some X, some X, none, none, none, some X, some O, some O] O X [0, 3, 4, 5] rfl rfl (List.cons_ne_nil _ _)]
  show pickBest [(0, (minimaxL 3 [some O, some X, some X, none, none, none, some X, some O, some O] X O).2), (3, (minimaxL 3 [none, some X, some X, some O, none, none, some X, some O, some O] X O).2), (4, (minimaxL 3 [none, some X, some X, none, some O, none, some X, some O, some O] X O).2), (5, (minimaxL 3 [none, some X, some X, none, none, some O, some X, some O, some O] X O).2)] O = (some 0, 1)
  rw [mmv_1368, mmv_2043, mmv_2199, mmv_2295]
  rfl

theorem mmv_2385 : minimaxL 5 [none, some X, none, none, none, none, some X, some O, some O] X O = (some 5, 1) := by
  rw [minimaxL_succ 4 [none, some X, none, none, none, none, some X, some O, some O] X O [0, 2, 3, 4, 5] rfl rfl (List.cons_ne_nil _ _)]
  show pickBest [(0, (minimaxL 4 [some X, some X, none, none, none, none, some X, some O, some O] O X).2), (2, (minimaxL 4 [none, some X, some X, none, none, none, some X, some O, some O] O X).2), (3, (minimaxL 4 [none, some X, none, some X, none, none, some X, some O, some O] O X).2), (4, (minimaxL 4 [none, some X, none, none, some X, none, some X, some O, some O] O X).2), (5, (minimaxL 4 [none, some X, none, none, none, some X, some X, some O, some O] O X).2)] X = (some 5, 1)
  rw [mmv_2386, mmv_2387, mmv_2374, mmv_2379, mmv_2383]
  rfl

theorem mmv_2384 : minimaxL 6 [none, some X, none, none, none, none, some X, some O, none] O X = (some 0, 0) := by
  rw [minimaxL_succ 5 [none, some X, none, none, none, none, some X, some O, none] O X [0, 2, 3, 4, 5, 8] rfl rfl (List.cons_ne_nil _ _)]
  show pickBest [(0, (minimaxL 5 [some O, some X, none, none, none, none, some X, some O, none] X O).2), (2, (minimaxL 5 [none, some X, some O, none, none, none, some X, some O, none] X O).2), (3, (minimaxL 5 [none, some X, none, some O, none, none, some X, some O, none] X O).2), (4, (minimaxL 5 [none, some X, none, none, some O, none, some X, some O, none] X O).2), (5, (minimaxL 5 [none, some X, none, none, none, some O, some X, some O, none] X O).2), (8, (minimaxL 5 [none, some X, none, none, none, none, some X, some O, some O] X O).2)] O = (some 0, 0)
  rw [mmv_1689, mmv_1910, mmv_2039, mmv_2193, mmv_2291, mmv_2385]
  rfl

theorem mmv_2388 : minimaxL 6 [none, some X, none, none, none, none, none, some O, some X] O X = (some 0, 0) := by
  rw [minimaxL_succ 5 [none, some X, none, none, none, none, none, some O, some X] O X [0, 2, 3, 4, 5, 6] rfl rfl (List.cons_ne_nil _ _)]
  show pickBest [(0, (minimaxL 5 [some O, some X, none, none, none, none, none, some O, some X] X O).2), (2, (minimaxL 5 [none, some X, some O, none, none, none, none, some O, some X] X O).2), (3, (minimaxL 5 [none, some X, none, some O, none, none, none, some O, some X] X O).2), (4, (minimaxL 5 [none, some X, none, none, some O, none, none, some O, some X] X O).2), (5, (minimaxL 5 [none, some X, none, none, none, some O, none, some O, some X] X O).2), (6, (minimaxL 5 [none, some X, none, none, none, none, some O, some O, some X] X O).2)] O = (some 0, 0)
  rw [mmv_1732, mmv_1941, mmv_2084, mmv_2231, mmv_2319, mmv_2362]
  rfl

theorem mmv_2365 : minimaxL 7 [none, some X, none, none, none, none, none, some O, none] X O = (some 8, 0) := by
  rw [minimaxL_succ 6 [none, some X, none, none, none, none, none, some O, none] X O [0, 2, 3, 4, 5, 6, 8] rfl rfl (List.cons_ne_nil _ _)]
  show pickBest [(0, (minimaxL 6 [some X, some X, none, none, none, none, none, some O, none] O X).2), (2, (minimaxL 6 [none, some X, some X, none, none, none, none, some O, none] O X).2), (3, (minimaxL 6 [none, some X, none, some X, none, none, none, some O, none] O X).2), (4, (minimaxL 6 [none, some X, none, none, some X, none, none, some O, none] O X).2), (5, (minimaxL 6 [none, some X, none, none, none, some X, none, some O, none] O X).2), (6, (minimaxL 6 [none, some X, none, none, none, none, some X, some O, none] O X).2), (8, (minimaxL 6 [none, some X, none, none, none, none, none, some O, some X] O X).2)] X = (some 8, 0)
  rw [mmv_1200, mmv_2366, mmv_2368, mmv_2375, mmv_2380, mmv_2384, mmv_2388]
  rfl

theorem mmv_2390 : minimaxL 6 [none, some X, some X, none, none, none, none, none, some O] O X = (some 0, 1) := by
  rw [minimaxL_succ 5 [none, some X, some X, none, none, none, none, none, some O] O X [0, 3, 4, 5, 6, 7] rfl rfl (List.cons_ne_nil _ _)]
  show pickBest [(0, (minimaxL 5 [some O, some X, some X, none, none, none, none, none, some O] X O).2), (3, (minimaxL 5 [none, some X, some X, some O, none, none, none, none, some O] X O).2), (4, (minimaxL 5 [none, some X, some X, none, some O, none, none, none, some O] X O).2), (5, (minimaxL 5 [none, some X, some X, none, none, some O, none, none, some O] X O).2), (6, (minimaxL 5 [none, some X, some X, none, none, none, some O, none, some O] X O).2), (7, (minimaxL 5 [none, some X, some X, none, none, none, none, some O, some O] X O).2)] O = (some 0, 1)
  rw [mmv_1372, mmv_1948, mmv_2096, mmv_2238, mmv_2325, mmv_2367]
  rfl

theorem mmv_2391 : minimaxL 6 [none, some X, none, some X, none, none, none, none, some O] O X = (some 2, -1) := by
  rw [minimaxL_succ 5 [none, some X, none, some X, none, none, none, none, some O] O X [0, 2, 4, 5, 6, 7] rfl rfl (List.cons_ne_nil _ _)]
  show pickBest [(0, (minimaxL 5 [some O, some X, none, some X, none, none, none, none, some O] X O).2), (2, (minimaxL 5 [none, some X, some O, some X, none, none, none, none, some O] X O).2), (4, (minimaxL 5 [none, some X, none, some X, some O, none, none, none, some O] X O).2), (5, (minimaxL 5 [none, some X, none, some X, none, some O, none, none, some O] X O).2), (6, (minimaxL 5 [none, some X, none, some X, none, none, some O, none, some O] X O).2), (7, (minimaxL 5 [none, some X, none, some X, none, none, none, some O, some O] X O).2)] O = (some 2, -1)
  rw [mmv_1517, mmv_1792, mmv_2158, mmv_2270, mmv_2332, mmv_2369]
  rfl

theorem mmv_2392 : minimaxL 6 [none, some X, none, none, some X, none, none, none, some O] O X = (some 7, 0) := by
  rw [minimaxL_succ 5 [none, some X, none, none, some X, none, none, none, some O] O X [0, 2, 3, 5, 6, 7] rfl rfl (List.cons_ne_nil _ _)]
  show pickBest [(0, (minimaxL 5 [some O, some X, none, none, some X, none, none, none, some O] X O).2), (2, (minimaxL 5 [none, some X, some O, none, some X, none, none, none, some O] X O).2), (3, (minimaxL 5 [none, some X, none, some O, some X, none, none, none, some O] X O).2), (5, (minimaxL 5 [none, some X, none, none, some X, some O, none, none, some O] X O).2), (6, (minimaxL 5 [none, some X, none, none, some X, none, some O, none, some O] X O).2), (7, (minimaxL 5 [none, some X, none, none, some X, none, none, some O, some O] X O).2)] O = (some 7, 0)
  rw [mmv_1562, mmv_1828, mmv_1974, mmv_2289, mmv_2347, mmv_2376]
  rfl

theorem mmv_2393 : minimaxL 6 [none, some X, none, none, none, some X, none, none, some O] O X = (some 6, -1) := by
  rw [minimaxL_succ 5 [none, some X, none, none, none, some X, none, none, some O] O X [0, 2, 3, 4, 6, 7] rfl rfl (List.cons_ne_nil _ _)]
  show pickBest [(0, (minimaxL 5 [some O, some X, none, none, none, some X, none, none, some O] X O).2), (2, (minimaxL 5 [none, some X, some O, none, none, some X, none, none, some O] X O).2), (3, (minimaxL 5 [none, some X, none, some O, none, some X, none, none, some O] X O).2), (4, (minimaxL 5 [none, some X, none, none, some O, some X, none, none, some O] X O).2), (6, (minimaxL 5 [none, some X, none, none, none, some X, some O, none, some O] X O).2), (7, (minimaxL 5 [none, some X, none, none, none, some X, none, some O, some O] X O).2)] O = (some 6, -1)
  rw [mmv_1641, mmv_1877, mmv_2016, mmv_2183, mmv_2352, mmv_2381]
  rfl

theorem mmv_2394 : minimaxL 6 [none, some X, none, none, none, none, some X, none, some O] O X = (some 2, 0) := by
  rw [minimaxL_succ 5 [none, some X, none, none, none, none, some X, none, some O] O X [0, 2, 3, 4, 5, 7] rfl rfl (List.cons_ne_nil _ _)]
  show pickBest [(0, (minimaxL 5 [some O, some X, none, none, none, none, some X, none, some O] X O).2), (2, (minimaxL 5 [none, some X, some O, none, none, none, some X, none, some O] X O).2), (3, (minimaxL 5 [none, some X, none, some O, none, none, some X, none, some O] X O).2), (4, (minimaxL 5 [none, some X, none, none, some O, none, some X, none, some O] X O).2), (5, (minimaxL 5 [none, some X, none, none, none, some O, some X, none, some O] X O).2), (7, (minimaxL 5 [none, some X, none, none, none, none, some X, some O, some O] X O).2)] O = (some 2, 0)
  rw [mmv_1691, mmv_1912, mmv_2051, mmv_2204, mmv_2297, mmv_2385]
  rfl

theorem mmv_2395 : minimaxL 6 [none, some X, none, none, none, none, none, some X, some O] O X = (some 4, -1) := by
  rw [minimaxL_succ 5 [none, some X, none, none, none, none, none, some X, some O] O X [0, 2, 3, 4, 5, 6] rfl rfl (List.cons_ne_nil _ _)]
  show pickBest [(0, (minimaxL 5 [some O, some X, none, none, none, none, none, some X, some O] X O).2), (2, (minimaxL 5 [none, some X, some O, none, none, none, none, some X, some O] X O).2), (3, (minimaxL 5 [none, some X, none, some O, none, none, none, some X, some O] X O).2), (4, (minimaxL 5 [none, some X, none, none, some O, none, none, some X, some O] X O).2), (5, (minimaxL 5 [none, some X, none, none, none, some O, none, some X, some O] X O).2), (6, (minimaxL 5 [none, some X, none, none, none, none, some O, some X, some O] X O).2)] O = (some 4, -1)
  rw [mmv_1707, mmv_1921, mmv_2066, mmv_2221, mmv_2305, mmv_2360]
  rfl

theorem mmv_2389 : minimaxL 7 [none, some X, none, none, none, none, none, none, some O] X O = (some 2, 1) := by
  rw [minimaxL_succ 6 [none, some X, none, none, none, none, none, none, some O] X O [0, 2, 3, 4, 5, 6, 7] rfl rfl (List.cons_ne_nil _ _)]
  show pickBest [(0, (minimaxL 6 [some X, some X, none, none, none, none, none, none, some O] O X).2), (2, (minimaxL 6 [none, some X, some X, none, none, none, none, none, some O] O X).2), (3, (minimaxL 6 [none, some X, none, some X, none, none, none, none, some O] O X).2), (4, (minimaxL 6 [none, some X, none, none, some X, none, none, none, some O] O X).2), (5, (minimaxL 6 [none, some X, none, none, none, some X, none, none, some O] O X).2), (6, (minimaxL 6 [none, some X, none, none, none, none, some X, none, some O] O X).2), (7, (minimaxL 6 [none, some X, none, none, none, none, none, some X, some O] O X).2)] X = (some 2, 1)
  rw [mmv_1225, mmv_2390, mmv_2391, mmv_2392, mmv_2393, mmv_2394, mmv_2395]
  rfl

theorem mmv_1232 : minimaxL 8 [none, some X, none, none, none, none, none, none, none] O X = (some 0, 0) := by
  rw [minimaxL_succ 7 [none, some X, none, none, none, none, none, none, none] O X [0, 2, 3, 4, 5, 6, 7, 8] rfl rfl (List.cons_ne_nil _ _)]
  show pickBest [(0, (minimaxL 7 [some O, some X, none, none, none, none, none, none, none] X O).2), (2, (minimaxL 7 [none, some X, some O, none, none, none, none, none, none] X O).2), (3, (minimaxL 7 [none, some X, none, some O, none, none, none, none, none] X O).2), (4, (minimaxL 7 [none, some X, none, none, some O, none, none, none, none] X O).2), (5, (minimaxL 7 [none, some X, none, none, none, some O, none, none, none] X O).2), (6, (minimaxL 7 [none, some X, none, none, none, none, some O, none, none] X O).2), (7, (minimaxL 7 [none, some X, none, none, none, none, none, some O, none] X O).2), (8, (minimaxL 7 [none, some X, none, none, none, none, none, none, some O] X O).2)] O = (some 0, 0)
  rw [mmv_1233, mmv_1733, mmv_1942, mmv_2091, mmv_2234, mmv_2322, mmv_2365, mmv_2389]
  rfl

theorem mmv_2401 : minimaxL 3 [some O, some O, some X, some X, some X, some O, none, none, none] X O = (some 6, 1) := rfl

theorem mmv_2402 : minimaxL 3 [some O, some O, some X, some X, some X, none, some O, none, none] X O = (some 5, 1) := rfl

theorem mmv_2403 : minimaxL 3 [some O, some O, some X, some X, some X, none, none, some O, none] X O = (some 6, 1) := rfl

theorem mmv_2404 : minimaxL 3 [some O, some O, some X, some X, some X, none, none, none, some O] X O = (some 6, 1) := rfl

theorem mmv_2400 : minimaxL 4 [some O, some O, some X, some X, some X, none, none, none, none] O X = (some 5, 1) := by
  rw [minimaxL_succ 3 [some O, some O, some X, some X, some X, none, none, none, none] O X [5, 6, 7, 8] rfl rfl (List.cons_ne_nil _ _)]
  show pickBest [(5, (minimaxL 3 [some O, some O, some X, some X, some X, some O, none, none, none] X O).2), (6, (minimaxL 3 [some O, some O, some X, some X, some X, none, some O, none, none] X O).2), (7, (minimaxL 3 [some O, some O, some X, some X, some X, none, none, some O, none] X O).2), (8, (minimaxL 3 [some O, some O, some X, some X, some X, none, none, none, some O] X O).2)] O = (some 5, 1)
  rw [mmv_2401, mmv_2402, mmv_2403, mmv_2404]
  rfl

theorem mmv_2406 : minimaxL 3 [some O, some O, some X, some X, some O, some X, none, none, none] X O = (some 8, 1) := rfl

theorem mmv_2407 : minimaxL 3 [some O, some O, some X, some X, none, some X, some O, none, none] X O = (some 8, 1) := rfl

theorem mmv_2408 : minimaxL 3 [some O, some O, some X, some X, none, some X, none, some O, none] X O = (some 8, 1) := rfl

theorem mmv_2409 : minimaxL 3 [some O, some O, some X, some X, none, some X, none, none, some O] X O = (some 4, 1) := rfl

theorem mmv_2405 : minimaxL 4 [some O, some O, some X, some X, none, some X, none, none, none] O X = (some 4, 1) := by
  rw [minimaxL_succ 3 [some O, some O, some X, some X, none, some X, none, none, none] O X [4, 6, 7, 8] rfl rfl (List.cons_ne_nil _ _)]
  show pickBest [(4, (minimaxL 3 [some O, some O, some X, some X, some O, some X, none, none, none] X O).2), (6, (minimaxL 3 [some O, some O, some X, some X, none, some X, some O, none, none] X O).2), (7, (minimaxL 3 [some O, some O, some X, some X, none, some X, none, some O, none] X O).2), (8, (minimaxL 3 [some O, some O, some X, some X, none, some X, none, none, some O] X O).2)] O = (some 4, 1)
  rw [mmv_2406, mmv_2407, mmv_2408, mmv_2409]
  rfl

theorem mmv_2412 : minimaxL 2 [some O, some O, some X, some X, some O, some X, some X, none, none] O X = (some 8, -1) := rfl

theorem mmv_2413 : minimaxL 2 [some O, some O, some X, some X, some O, none, some X, some X, none] O X = (some 8, -1) := rfl

theorem mmv_2414 : minimaxL 2 [some O, some O, some X, some X, some O, none, some X, none, some X] O X = (some 7, -1) := rfl

theorem mmv_2411 : minimaxL 3 [some O, some O, some X, some X, some O, none, some X, none, none] X O = (some 8, -1) := by
  rw [minimaxL_succ 2 [some O, some O, some X, some X, some O, none, some X, none, none] X O [5, 7, 8] rfl rfl (List.cons_ne_nil _ _)]
  show pickBest [(5, (minimaxL 2 [some O, some O, some X, some X, some O, some X, some X, none, none] O X).2), (7, (minimaxL 2 [some O, some O, some X, some X, some O, none, some X, some X, none] O X).2), (8, (minimaxL 2 [some O, some O, some X, some X, some O, none, some X, none, some X] O X).2)] X = (some 8, -1)
  rw [mmv_2412, mmv_2413, mmv_2414]
  rfl

theorem mmv_2415 : minimaxL 3 [some O, some O, some X, some X, none, some O, some X, none, none] X O = (some 4, 1) := rfl

theorem mmv_2416 : minimaxL 3 [some O, some O, some X, some X, none, none, some X, some O, none] X O = (some 4, 1) := rfl

theorem mmv_2417 : minimaxL 3 [some O, some O, some X, some X, none, none, some X, none, some O] X O = (some 4, 1) := rfl

theorem mmv_2410 : minimaxL 4 [some O, some O, some X, some X, none, none, some X, none, none] O X = (some 4, -1) := by
  rw [minimaxL_succ 3 [some O, some O, some X, some X, none, none, some X, none, none] O X [4, 5, 7, 8] rfl rfl (List.cons_ne_nil _ _)]
  show pickBest [(4, (minimaxL 3 [some O, some O, some X, some X, some O, none, some X, none, none] X O).2), (5, (minimaxL 3 [some O, some O, some X, some X, none, some O, some X, none, none] X O).2), (7, (minimaxL 3 [some O, some O, some X, some X, none, none, some X, some O, none] X O).2), (8, (minimaxL 3 [some O, some O, some X, some X, none, none, some X, none, some O] X O).2)] O = (some 4, -1)
  rw [mmv_2411, mmv_2415, mmv_2416, mmv_2417]
  rfl

theorem mmv_2420 : minimaxL 2 [some O, some O, some X, some X, some O, some X, none, some X, none] O X = (some 8, -1) := rfl

theorem mmv_2422 : minimaxL 1 [some O, some O, some X, some X, some O, some O, none, some X, some X] X O = (some 6, 1) := rfl

theorem mmv_2423 : minimaxL 1 [some O, some O, some X, some X, some O, none, some O, some X, some X] X O = (some 5, 1) := rfl

theorem mmv_2421 : minimaxL 2 [some O, some O, some X, some X, some O, none, none, some X, some X] O X = (some 5, 1) := by
  rw [minimaxL_succ 1 [some O, some O, some X, some X, some O, none, none, some X, some X] O X [5, 6] rfl rfl (List.cons_ne_nil _ _)]
  show pickBest [(5, (minimaxL 1 [some O, some O, some X, some X, some O, some O, none, some X, some X] X O).2), (6, (minimaxL 1 [some O, some O, some X, some X, some O, none, some O, some X, some X] X O).2)] O = (some 5, 1)
  rw [mmv_2422, mmv_2423]
  rfl

theorem mmv_2419 : minimaxL 3 [some O, some O, some X, some X, some O, none, none, some X, none] X O = (some 8, 1) := by
  rw [minimaxL_succ 2 [some O, some O, some X, some X, some O, none, none, some X, none] X O [5, 6, 8] rfl rfl (List.cons_ne_nil _ _)]
  show pickBest [(5, (minimaxL 2 [some O, some O, some X, some X, some O, some X, none, some X, none] O X).2), (6, (minimaxL 2 [some O, some O, some X, some X, some O, none, some X, some X, none] O X).2), (8, (minimaxL 2 [some O, some O, some X, some X, some O, none, none, some X, some X] O X).2)] X = (some 8, 1)
  rw [mmv_2420, mmv_2413, mmv_2421]
  rfl

theorem mmv_2427 : minimaxL 0 [some O, some O, some X, some X, some X, some O, some O, some X, some X] O X = (none, 0) := rfl

theorem mmv_2426 : minimaxL 1 [some O, some O, some X, some X, some X, some O, some O, some X, none] X O = (some 8, 0) := by
  rw [minimaxL_succ 0 [some O, some O, some X, some X, some X, some O, some O, some X, none] X O [8] rfl rfl (List.cons_ne_nil _ _)]
  show pickBest [(8, (minimaxL 0 [some O, some O, some X, some X, some X, some O, some O, some X, some X] O X).2)] X = (some 8, 0)
  rw [mmv_2427]
  rfl

theorem mmv_2428 : minimaxL 1 [some O, some O, some X, some X, some X, some O, none, some X, some O] X O = (some 6, 1) := rfl

theorem mmv_2425 : minimaxL 2 [some O, some O, some X, some X, some X, some O, none, some X, none] O X = (some 6, 0) := by
  rw [minimaxL_succ 1 [some O, some O, some X, some X, some X, some O, none, some X, none] O X [6, 8] rfl rfl (List.cons_ne_nil _ _)]
  show pickBest [(6, (minimaxL 1 [some O, some O, some X, some X, some X, some O, some O, some X, none] X O).2), (8, (minimaxL 1 [some O, some O, some X, some X, some X, some O, none, some X, some O] X O).2)] O = (some 6, 0)
  rw [mmv_2426, mmv_2428]
  rfl

theorem mmv_2430 : minimaxL 1 [some O, some O, some X, some X, some O, some O, some X, some X, none] X O = (some 8, 1) := rfl

theorem mmv_2431 : minimaxL 1 [some O, some O, some X, some X, none, some O, some X, some X, some O] X O = (some 4, 1) := rfl

theorem mmv_2429 : minimaxL 2 [some O, some O, some X, some X, none, some O, some X, some X, none] O X = (some 4, 1) := by
  rw [minimaxL_succ 1 [some O, some O, some X, some X, none, some O, some X, some X, none] O X [4, 8] rfl rfl (List.cons_ne_nil _ _)]
  show pickBest [(4, (minimaxL 1 [some O, some O, some X, some X, some O, some O, some X, some X, none] X O).2), (8, (minimaxL 1 [some O, some O, some X, some X, none, some O, some X, some X, some O] X O).2)] O = (some 4, 1)
  rw [mmv_2430, mmv_2431]
  rfl

theorem mmv_2433 : minimaxL 1 [some O, some O, some X, some X, none, some O, some O, some X, some X] X O = (some 4, 0) := by
  rw [minimaxL_succ 0 [some O, some O, some X, some X, none, some O, some O, some X, some X] X O [4] rfl rfl (List.cons_ne_nil _ _)]
  show pickBest [(4, (minimaxL 0 [some O, some O, some X, some X, some X, some O, some O, some X, some X] O X).2)] X = (some 4, 0)
  rw [mmv_2427]
  rfl

theorem mmv_2432 : minimaxL 2 [some O, some O, some X, some X, none, some O, none, some X, some X] O X = (some 6, 0) := by
  rw [minimaxL_succ 1 [some O, some O, some X, some X, none, some O, none, some X, some X] O X [4, 6] rfl rfl (List.cons_ne_nil _ _)]
  show pickBest [(4, (minimaxL 1 [some O, some O, some X, some X, some O, some O, none, some X, some X] X O).2), (6, (minimaxL 1 [some O, some O, some X, some X, none, some O, some O, some X, some X] X O).2)] O = (some 6, 0)
  rw [mmv_2422, mmv_2433]
  rfl

theorem mmv_2424 : minimaxL 3 [some O, some O, some X, some X, none, some O, none, some X, none] X O = (some 6, 1) := by
  rw [minimaxL_succ 2 [some O, some O, some X, some X, none, some O, none, some X, none] X O [4, 6, 8] rfl rfl (List.cons_ne_nil _ _)]
  show pickBest [(4, (minimaxL 2 [some O, some O, some X, some X, some X, some O, none, some X, none] O X).2), (6, (minimaxL 2 [some O, some O, some X, some X, none, some O, some X, some X, none] O X).2), (8, (minimaxL 2 [some O, some O, some X, some X, none, some O, none, some X, some X] O X).2)] X = (some 6, 1)
  rw [mmv_2425, mmv_2429, mmv_2432]
  rfl

theorem mmv_2436 : minimaxL 1 [some O, some O, some X, some X, some X, none, some O, some X, some O] X O = (some 5, 1) := rfl

theorem mmv_2435 : minimaxL 2 [some O, some O, some X, some X, some X, none, some O, some X, none] O X = (some 5, 0) := by
  rw [minimaxL_succ 1 [some O, some O, some X, some X, some X, none, some O, some X, none] O X [5, 8] rfl rfl (List.cons_ne_nil _ _)]
  show pickBest [(5, (minimaxL 1 [some O, some O, some X, some X, some X, some O, some O, some X, none] X O).2), (8, (minimaxL 1 [some O, some O, some X, some X, some X, none, some O, some X, some O] X O).2)] O = (some 5, 0)
  rw [mmv_2426, mmv_2436]
  rfl

theorem mmv_2438 : minimaxL 1 [some O, some O, some X, some X, some O, some X, some O, some X, none] X O = (some 8, 1) := rfl

theorem mmv_2439 : minimaxL 1 [some O, some O, some X, some X, none, some X, some O, some X, some O] X O = (some 4, 1) := rfl

theorem mmv_2437 : minimaxL 2 [some O, some O, some X, some X, none, some X, some O, some X, none] O X = (some 4, 1) := by
  rw [minimaxL_succ 1 [some O, some O, some X, some X, none, some X, some O, some X, none] O X [4, 8] rfl rfl (List.cons_ne_nil _ _)]
  show pickBest [(4, (minimaxL 1 [some O, some O, some X, some X, some O, some X, some O, some X, none] X O).2), (8, (minimaxL 1 [some O, some O, some X, some X, none, some X, some O, some X, some O] X O).2)] O = (some 4, 1)
  rw [mmv_2438, mmv_2439]
  rfl

theorem mmv_2440 : minimaxL 2 [some O, some O, some X, some X, none, none, some O, some X, some X] O X = (some 5, 0) := by
  rw [minimaxL_succ 1 [some O, some O, some X, some X, none, none, some O, some X, some X] O X [4, 5] rfl rfl (List.cons_ne_nil _ _)]
  show pickBest [(4, (minimaxL 1 [some O, some O, some X, some X, some O, none, some O, some X, some X] X O).2), (5, (minimaxL 1 [some O, some O, some X, some X, none, some O, some O, some X, some X] X O).2)] O = (some 5, 0)
  rw [mmv_2423, mmv_2433]
  rfl

theorem mmv_2434 : minimaxL 3 [some O, some O, some X, some X, none, none, some O, some X, none] X O = (some 5, 1) := by
  rw [minimaxL_succ 2 [some O, some O, some X, some X, none, none, some O, some X, none] X O [4, 5, 8] rfl rfl (List.cons_ne_nil _ _)]
  show pickBest [(4, (minimaxL 2 [some O, some O, some X, some X, some X, none, some O, some X, none] O X).2), (5, (minimaxL 2 [some O, some O, some X, some X, none, some X, some O, some X, none] O X).2), (8, (minimaxL 2 [some O, some O, some X, some X, none, none, some O, some X, some X] O X).2)] X = (some 5, 1)
  rw [mmv_2435, mmv_2437, mmv_2440]
  rfl

theorem mmv_2442 : minimaxL 2 [some O, some O, some X, some X, some X, none, none, some X, some O] O X = (some 5, 1) := by
  rw [minimaxL_succ 1 [some O, some O, some X, some X, some X, none, none, some X, some O] O X [5, 6] rfl rfl (List.cons_ne_nil _ _)]
  show pickBest [(5, (minimaxL 1 [some O, some O, some X, some X, some X, some O, none, some X, some O] X O).2), (6, (minimaxL 1 [some O, some O, some X, some X, some X, none, some O, some X, some O] X O).2)] O = (some 5, 1)
  rw [mmv_2428, mmv_2436]
  rfl

theorem mmv_2443 : minimaxL 2 [some O, some O, some X, some X, none, some X, none, some X, some O] O X = (some 4, -1) := rfl

theorem mmv_2444 : minimaxL 2 [some O, some O, some X, some X, none, none, some X, some X, some O] O X = (some 4, -1) := rfl

theorem mmv_2441 : minimaxL 3 [some O, some O, some X, some X, none, none, none, some X, some O] X O = (some 4, 1) := by
  rw [minimaxL_succ 2 [some O, some O, some X, some X, none, none, none, some X, some O] X O [4, 5, 6] rfl rfl (List.cons_ne_nil _ _)]
  show pickBest [(4, (minimaxL 2 [some O, some O, some X, some X, some X, none, none, some X, some O] O X).2), (5, (minimaxL 2 [some O, some O, some X, some X, none, some X, none, some X, some O] O X).2), (6, (minimaxL 2 [some O, some O, some X, some X, none, none, some X, some X, some O] O X).2)] X = (some 4, 1)
  rw [mmv_2442, mmv_2443, mmv_2444]
  rfl

theorem mmv_2418 : minimaxL 4 [some O, some O, some X, some X, none, none, none, some X, none] O X = (some 4, 1) := by
  rw [minimaxL_succ 3 [some O, some O, some X, some X, none, none, none, some X, none] O X [4, 5, 6, 8] rfl rfl (List.cons_ne_nil _ _)]
  show pickBest [(4, (minimaxL 3 [some O, some O, some X, some X, some O, none, none, some X, none] X O).2), (5, (minimaxL 3 [some O, some O, some X, some X, none, some O, none, some X, none] X O).2), (6, (minimaxL 3 [some O, some O, some X, some X, none, none, some O, some X, none] X O).2), (8, (minimaxL 3 [some O, some O, some X, some X, none, none, none, some X, some O] X O).2)] O = (some 4, 1)
  rw [mmv_2419, mmv_2424, mmv_2434, mmv_2441]
  rfl

theorem mmv_2446 : minimaxL 3 [some O, some O, some X, some X, some O, none, none, none, some X] X O = (some 5, 1) := rfl

theorem mmv_2449 : minimaxL 1 [some O, some O, some X, some X, some X, some O, some O, none, some X] X O = (some 7, 0) := by
  rw [minimaxL_succ 0 [some O, some O, some X, some X, some X, some O, some O, none, some X] X O [7] rfl rfl (List.cons_ne_nil _ _)]
  show pickBest [(7, (minimaxL 0 [some O, some O, some X, some X, some X, some O, some O, some X, some X] O X).2)] X = (some 7, 0)
  rw [mmv_2427]
  rfl

theorem mmv_2450 : minimaxL 1 [some O, some O, some X, some X, some X, some O, none, some O, some X] X O = (some 6, 1) := rfl

theorem mmv_2448 : minimaxL 2 [some O, some O, some X, some X, some X, some O, none, none, some X] O X = (some 6, 0) := by
  rw [minimaxL_succ 1 [some O, some O, some X, some X, some X, some O, none, none, some X] O X [6, 7] rfl rfl (List.cons_ne_nil _ _)]
  show pickBest [(6, (minimaxL 1 [some O, some O, some X, some X, some X, some O, some O, none, some X] X O).2), (7, (minimaxL 1 [some O, some O, some X, some X, some X, some O, none, some O, some X] X O).2)] O = (some 6, 0)
  rw [mmv_2449, mmv_2450]
  rfl

theorem mmv_2452 : minimaxL 1 [some O, some O, some X, some X, some O, some O, some X, none, some X] X O = (some 7, 1) := rfl

theorem mmv_2453 : minimaxL 1 [some O, some O, some X, some X, none, some O, some X, some O, some X] X O = (some 4, 1) := rfl

theorem mmv_2451 : minimaxL 2 [some O, some O, some X, some X, none, some O, some X, none, some X] O X = (some 4, 1) := by
  rw [minimaxL_succ 1 [some O, some O, some X, some X, none, some O, some X, none, some X] O X [4, 7] rfl rfl (List.cons_ne_nil _ _)]
  show pickBest [(4, (minimaxL 1 [some O, some O, some X, some X, some O, some O, some X, none, some X] X O).2), (7, (minimaxL 1 [some O, some O, some X, some X, none, some O, some X, some O, some X] X O).2)] O = (some 4, 1)
  rw [mmv_2452, mmv_2453]
  rfl

theorem mmv_2447 : minimaxL 3 [some O, some O, some X, some X, none, some O, none, none, some X] X O = (some 6, 1) := by
  rw [minimaxL_succ 2 [some O, some O, some X, some X, none, some O, none, none, some X] X O [4, 6, 7] rfl rfl (List.cons_ne_nil _ _)]
  show pickBest [(4, (minimaxL 2 [some O, some O, some X, some X, some X, some O, none, none, some X] O X).2), (6, (minimaxL 2 [some O, some O, some X, some X, none, some O, some X, none, some X] O X).2), (7, (minimaxL 2 [some O, some O, some X, some X, none, some O, none, some X, some X] O X).2)] X = (some 6, 1)
  rw [mmv_2448, mmv_2451, mmv_2432]
  rfl

theorem mmv_2454 : minimaxL 3 [some O, some O, some X, some X, none, none, some O, none, some X] X O = (some 5, 1) := rfl

theorem mmv_2455 : minimaxL 3 [some O, some O, some X, some X, none, none, none, some O, some X] X O = (some 5, 1) := rfl

theorem mmv_2445 : minimaxL 4 [some O, some O, some X, some X, none, none, none, none, some X] O X = (some 4, 1) := by
  rw [minimaxL_succ 3 [some O, some O, some X, some X, none, none, none, none, some X] O X [4, 5, 6, 7] rfl rfl (List.cons_ne_nil _ _)]
  show pickBest [(4, (minimaxL 3 [some O, some O, some X, some X, some O, none, none, none, some X] X O).2), (5, (minimaxL 3 [some O, some O, some X, some X, none, some O, none, none, some X] X O).2), (6, (minimaxL 3 [some O, some O, some X, some X, none, none, some O, none, some X] X O).2), (7, (minimaxL 3 [some O, some O, some X, some X, none, none, none, some O, some X] X O).2)] O = (some 4, 1)
  rw [mmv_2446, mmv_2447, mmv_2454, mmv_2455]
  rfl

theorem mmv_2399 : minimaxL 5 [some O, some O, some X, some X, none, none, none, none, none] X O = (some 8, 1) := by
  rw [minimaxL_succ 4 [some O, some O, some X, some X, none, none, none, none, none] X O [4, 5, 6, 7, 8] rfl rfl (List.cons_ne_nil _ _)]
  show pickBest [(4, (minimaxL 4 [some O, some O, some X, some X, some X, none, none, none, none] O X).2), (5, (minimaxL 4 [some O, some O, some X, some X, none, some X, none, none, none] O X).2), (6, (minimaxL 4 [some O, some O, some X, some X, none, none, some X, none, none] O X).2), (7, (minimaxL 4 [some O, some O, some X, some X, none, none, none, some X, none] O X).2), (8, (minimaxL 4 [some O, some O, some X, some X, none, none, none, none, some X] O X).2)] X = (some 8, 1)
  rw [mmv_2400, mmv_2405, mmv_2410, mmv_2418, mmv_2445]
  rfl

theorem mmv_2457 : minimaxL 4 [some O, none, some X, some X, some O, some X, none, none, none] O X = (some 8, -1) := rfl

theorem mmv_2458 : minimaxL 4 [some O, none, some X, some X, some O, none, some X, none, none] O X = (some 8, -1) := rfl

theorem mmv_2459 : minimaxL 4 [some O, none, some X, some X, some O, none, none, some X, none] O X = (some 8, -1) := rfl

theorem mmv_2463 : minimaxL 1 [some O, none, some X, some X, some O, some O, some X, some O, some X] X O = (some 1, 0) := by
  rw [minimaxL_succ 0 [some O, none, some X, some X, some O, some O, some X, some O, some X] X O [1] rfl rfl (List.cons_ne_nil _ _)]
  show pickBest [(1, (minimaxL 0 [some O, some X, some X, some X, some O, some O, some X, some O, some X] O X).2)] X = (some 1, 0)
  rw [mmv_1260]
  rfl

theorem mmv_2462 : minimaxL 2 [some O, none, some X, some X, some O, some O, some X, none, some X] O X = (some 7, 0) := by
  rw [minimaxL_succ 1 [some O, none, some X, some X, some O, some O, some X, none, some X] O X [1, 7] rfl rfl (List.cons_ne_nil _ _)]
  show pickBest [(1, (minimaxL 1 [some O, some O, some X, some X, some O, some O, some X, none, some X] X O).2), (7, (minimaxL 1 [some O, none, some X, some X, some O, some O, some X, some O, some X] X O).2)] O = (some 7, 0)
  rw [mmv_2452, mmv_2463]
  rfl

theorem mmv_2465 : minimaxL 1 [some O, none, some X, some X, some O, some O, some O, some X, some X] X O = (some 1, 0) := by
  rw [minimaxL_succ 0 [some O, none, some X, some X, some O, some O, some O, some X, some X] X O [1] rfl rfl (List.cons_ne_nil _ _)]
  show pickBest [(1, (minimaxL 0 [some O, some X, some X, some X, some O, some O, some O, some X, some X] O X).2)] X = (some 1, 0)
  rw [mmv_1258]
  rfl

theorem mmv_2464 : minimaxL 2 [some O, none, some X, some X, some O, some O, none, some X, some X] O X = (some 6, 0) := by
  rw [minimaxL_succ 1 [some O, none, some X, some X, some O, some O, none, some X, some X] O X [1, 6] rfl rfl (List.cons_ne_nil _ _)]
  show pickBest [(1, (minimaxL 1 [some O, some O, some X, some X, some O, some O, none, some X, some X] X O).2), (6, (minimaxL 1 [some O, none, some X, some X, some O, some O, some O, some X, some X] X O).2)] O = (some 6, 0)
  rw [mmv_2422, mmv_2465]
  rfl

theorem mmv_2461 : minimaxL 3 [some O, none, some X, some X, some O, some O, none, none, some X] X O = (some 7, 0) := by
  rw [minimaxL_succ 2 [some O, none, some X, some X, some O, some O, none, none, some X] X O [1, 6, 7] rfl rfl (List.cons_ne_nil _ _)]
  show pickBest [(1, (minimaxL 2 [some O, some X, some X, some X, some O, some O, none, none, some X] O X).2), (6, (minimaxL 2 [some O, none, some X, some X, some O, some O, some X, none, some X] O X).2), (7, (minimaxL 2 [some O, none, some X, some X, some O, some O, none, some X, some X] O X).2)] X = (some 7, 0)
  rw [mmv_1256, mmv_2462, mmv_2464]
  rfl

theorem mmv_2466 : minimaxL 3 [some O, none, some X, some X, some O, none, some O, none, some X] X O = (some 5, 1) := rfl

theorem mmv_2467 : minimaxL 3 [some O, none, some X, some X, some O, none, none, some O, some X] X O = (some 5, 1) := rfl

theorem mmv_2460 : minimaxL 4 [some O, none, some X, some X, some O, none, none, none, some X] O X = (some 5, 0) := by
  rw [minimaxL_succ 3 [some O, none, some X, some X, some O, none, none, none, some X] O X [1, 5, 6, 7] rfl rfl (List.cons_ne_nil _ _)]
  show pickBest [(1, (minimaxL 3 [some O, some O, some X, some X, some O, none, none, none, some X] X O).2), (5, (minimaxL 3 [some O, none, some X, some X, some O, some O, none, none, some X] X O).2), (6, (minimaxL 3 [some O, none, some X, some X, some O, none, some O, none, some X] X O).2), (7, (minimaxL 3 [some O, none, some X, some X, some O, none, none, some O, some X] X O).2)] O = (some 5, 0)
  rw [mmv_2446, mmv_2461, mmv_2466, mmv_2467]
  rfl

theorem mmv_2456 : minimaxL 5 [some O, none, some X, some X, some O, none, none, none, none] X O = (some 8, 0) := by
  rw [minimaxL_succ 4 [some O, none, some X, some X, some O, none, none, none, none] X O [1, 5, 6, 7, 8] rfl rfl (List.cons_ne_nil _ _)]
  show pickBest [(1, (minimaxL 4 [some O, some X, some X, some X, some O, none, none, none, none] O X).2), (5, (minimaxL 4 [some O, none, some X, some X, some O, some X, none, none, none] O X).2), (6, (minimaxL 4 [some O, none, some X, some X, some O, none, some X, none, none] O X).2), (7, (minimaxL 4 [some O, none, some X, some X, some O, none, none, some X, none] O X).2), (8, (minimaxL 4 [some O, none, some X, some X, some O, none, none, none, some X] O X).2)] X = (some 8, 0)
  rw [mmv_1249, mmv_2457, mmv_2458, mmv_2459, mmv_2460]
  rfl

theorem mmv_2472 : minimaxL 1 [some O, none, some X, some X, some X, some O, some O, some X, some O] X O = (some 1, 1) := rfl

theorem mmv_2471 : minimaxL 2 [some O, none, some X, some X, some X, some O, some O, some X, none] O X = (some 1, 0) := by
  rw [minimaxL_succ 1 [some O, none, some X, some X, some X, some O, some O, some X, none] O X [1, 8] rfl rfl (List.cons_ne_nil _ _)]
  show pickBest [(1, (minimaxL 1 [some O, some O, some X, some X, some X, some O, some O, some X, none] X O).2), (8, (minimaxL 1 [some O, none, some X, some X, some X, some O, some O, some X, some O] X O).2)] O = (some 1, 0)
  rw [mmv_2426, mmv_2472]
  rfl

theorem mmv_2474 : minimaxL 1 [some O, none, some X, some X, some X, some O, some O, some O, some X] X O = (some 1, 0) := by
  rw [minimaxL_succ 0 [some O, none, some X, some X, some X, some O, some O, some O, some X] X O [1] rfl rfl (List.cons_ne_nil _ _)]
  show pickBest [(1, (minimaxL 0 [some O, some X, some X, some X, some X, some O, some O, some O, some X] O X).2)] X = (some 1, 0)
  rw [mmv_1273]
  rfl

theorem mmv_2473 : minimaxL 2 [some O, none, some X, some X, some X, some O, some O, none, some X] O X = (some 1, 0) := by
  rw [minimaxL_succ 1 [some O, none, some X, some X, some X, some O, some O, none, some X] O X [1, 7] rfl rfl (List.cons_ne_nil _ _)]
  show pickBest [(1, (minimaxL 1 [some O, some O, some X, some X, some X, some O, some O, none, some X] X O).2), (7, (minimaxL 1 [some O, none, some X, some X, some X, some O, some O, some O, some X] X O).2)] O = (some 1, 0)
  rw [mmv_2449, mmv_2474]
  rfl

theorem mmv_2470 : minimaxL 3 [some O, none, some X, some X, some X, some O, some O, none, none] X O = (some 8, 0) := by
  rw [minimaxL_succ 2 [some O, none, some X, some X, some X, some O, some O, none, none] X O [1, 7, 8] rfl rfl (List.cons_ne_nil _ _)]
  show pickBest [(1, (minimaxL 2 [some O, some X, some X, some X, some X, some O, some O, none, none] O X).2), (7, (minimaxL 2 [some O, none, some X, some X, some X, some O, some O, some X, none] O X).2), (8, (minimaxL 2 [some O, none, some X, some X, some X, some O, some O, none, some X] O X).2)] X = (some 8, 0)
  rw [mmv_1271, mmv_2471, mmv_2473]
  rfl

theorem mmv_2475 : minimaxL 3 [some O, none, some X, some X, some X, some O, none, some O, none] X O = (some 6, 1) := rfl

theorem mmv_2476 : minimaxL 3 [some O, none, some X, some X, some X, some O, none, none, some O] X O = (some 6, 1) := rfl

theorem mmv_2469 : minimaxL 4 [some O, none, some X, some X, some X, some O, none, none, none] O X = (some 6, 0) := by
  rw [minimaxL_succ 3 [some O, none, some X, some X, some X, some O, none, none, none] O X [1, 6, 7, 8] rfl rfl (List.cons_ne_nil _ _)]
  show pickBest [(1, (minimaxL 3 [some O, some O, some X, some X, some X, some O, none, none, none] X O).2), (6, (minimaxL 3 [some O, none, some X, some X, some X, some O, some O, none, none] X O).2), (7, (minimaxL 3 [some O, none, some X, some X, some X, some O, none, some O, none] X O).2), (8, (minimaxL 3 [some O, none, some X, some X, some X, some O, none, none, some O] X O).2)] O = (some 6, 0)
  rw [mmv_2401, mmv_2470, mmv_2475, mmv_2476]
  rfl

theorem mmv_2479 : minimaxL 2 [some O, none, some X, some X, some O, some O, some X, some X, none] O X = (some 8, -1) := rfl

theorem mmv_2478 : minimaxL 3 [some O, none, some X, some X, some O, some O, some X, none, none] X O = (some 8, 0) := by
  rw [minimaxL_succ 2 [some O, none, some X, some X, some O, some O, some X, none, none] X O [1, 7, 8] rfl rfl (List.cons_ne_nil _ _)]
  show pickBest [(1, (minimaxL 2 [some O, some X, some X, some X, some O, some O, some X, none, none] O X).2), (7, (minimaxL 2 [some O, none, some X, some X, some O, some O, some X, some X, none] O X).2), (8, (minimaxL 2 [some O, none, some X, some X, some O, some O, some X, none, some X] O X).2)] X = (some 8, 0)
  rw [mmv_1268, mmv_2479, mmv_2462]
  rfl

theorem mmv_2480 : minimaxL 3 [some O, none, some X, some X, none, some O, some X, some O, none] X O = (some 4, 1) := rfl

theorem mmv_2481 : minimaxL 3 [some O, none, some X, some X, none, some O, some X, none, some O] X O = (some 4, 1) := rfl

theorem mmv_2477 : minimaxL 4 [some O, none, some X, some X, none, some O, some X, none, none] O X = (some 4, 0) := by
  rw [minimaxL_succ 3 [some O, none, some X, some X, none, some O, some X, none, none] O X [1, 4, 7, 8] rfl rfl (List.cons_ne_nil _ _)]
  show pickBest [(1, (minimaxL 3 [some O, some O, some X, some X, none, some O, some X, none, none] X O).2), (4, (minimaxL 3 [some O, none, some X, some X, some O, some O, some X, none, none] X O).2), (7, (minimaxL 3 [some O, none, some X, some X, none, some O, some X, some O, none] X O).2), (8, (minimaxL 3 [some O, none, some X, some X, none, some O, some X, none, some O] X O).2)] O = (some 4, 0)
  rw [mmv_2415, mmv_2478, mmv_2480, mmv_2481]
  rfl

theorem mmv_2483 : minimaxL 3 [some O, none, some X, some X, some O, some O, none, some X, none] X O = (some 8, 0) := by
  rw [minimaxL_succ 2 [some O, none, some X, some X, some O, some O, none, some X, none] X O [1, 6, 8] rfl rfl (List.cons_ne_nil _ _)]
  show pickBest [(1, (minimaxL 2 [some O, some X, some X, some X, some O, some O, none, some X, none] O X).2), (6, (minimaxL 2 [some O, none, some X, some X, some O, some O, some X, some X, none] O X).2), (8, (minimaxL 2 [some O, none, some X, some X, some O, some O, none, some X, some X] O X).2)] X = (some 8, 0)
  rw [mmv_1269, mmv_2479, mmv_2464]
  rfl

theorem mmv_2485 : minimaxL 2 [some O, none, some X, some X, none, some O, some O, some X, some X] O X = (some 1, 0) := by
  rw [minimaxL_succ 1 [some O, none, some X, some X, none, some O, some O, some X, some X] O X [1, 4] rfl rfl (List.cons_ne_nil _ _)]
  show pickBest [(1, (minimaxL 1 [some O, some O, some X, some X, none, some O, some O, some X, some X] X O).2), (4, (minimaxL 1 [some O, none, some X, some X, some O, some O, some O, some X, some X] X O).2)] O = (some 1, 0)
  rw [mmv_2433, mmv_2465]
  rfl

theorem mmv_2484 : minimaxL 3 [some O, none, some X, some X, none, some O, some O, some X, none] X O = (some 8, 0) := by
  rw [minimaxL_succ 2 [some O, none, some X, some X, none, some O, some O, some X, none] X O [1, 4, 8] rfl rfl (List.cons_ne_nil _ _)]
  show pickBest [(1, (minimaxL 2 [some O, some X, some X, some X, none, some O, some O, some X, none] O X).2), (4, (minimaxL 2 [some O, none, some X, some X, some X, some O, some O, some X, none] O X).2), (8, (minimaxL 2 [some O, none, some X, some X, none, some O, some O, some X, some X] O X).2)] X = (some 8, 0)
  rw [mmv_1275, mmv_2471, mmv_2485]
  rfl

theorem mmv_2487 : minimaxL 2 [some O, none, some X, some X, some X, some O, none, some X, some O] O X = (some 1, 1) := by
  rw [minimaxL_succ 1 [some O, none, some X, some X, some X, some O, none, some X, some O] O X [1, 6] rfl rfl (List.cons_ne_nil _ _)]
  show pickBest [(1, (minimaxL 1 [some O, some O, some X, some X, some X, some O, none, some X, some O] X O).2), (6, (minimaxL 1 [some O, none, some X, some X, some X, some O, some O, some X, some O] X O).2)] O = (some 1, 1)
  rw [mmv_2428, mmv_2472]
  rfl

theorem mmv_2488 : minimaxL 2 [some O, none, some X, some X, none, some O, some X, some X, some O] O X = (some 4, -1) := rfl

theorem mmv_2486 : minimaxL 3 [some O, none, some X, some X, none, some O, none, some X, some O] X O = (some 4, 1) := by
  rw [minimaxL_succ 2 [some O, none, some X, some X, none, some O, none, some X, some O] X O [1, 4, 6] rfl rfl (List.cons_ne_nil _ _)]
  show pickBest [(1, (minimaxL 2 [some O, some X, some X, some X, none, some O, none, some X, some O] O X).2), (4, (minimaxL 2 [some O, none, some X, some X, some X, some O, none, some X, some O] O X).2), (6, (minimaxL 2 [some O, none, some X, some X, none, some O, some X, some X, some O] O X).2)] X = (some 4, 1)
  rw [mmv_1290, mmv_2487, mmv_2488]
  rfl

theorem mmv_2482 : minimaxL 4 [some O, none, some X, some X, none, some O, none, some X, none] O X = (some 4, 0) := by
  rw [minimaxL_succ 3 [some O, none, some X, some X, none, some O, none, some X, none] O X [1, 4, 6, 8] rfl rfl (List.cons_ne_nil _ _)]
  show pickBest [(1, (minimaxL 3 [some O, some O, some X, some X, none, some O, none, some X, none] X O).2), (4, (minimaxL 3 [some O, none, some X, some X, some O, some O, none, some X, none] X O).2), (6, (minimaxL 3 [some O, none, some X, some X, none, some O, some O, some X, none] X O).2), (8, (minimaxL 3 [some O, none, some X, some X, none, some O, none, some X, some O] X O).2)] O = (some 4, 0)
  rw [mmv_2424, mmv_2483, mmv_2484, mmv_2486]
  rfl

theorem mmv_2490 : minimaxL 3 [some O, none, some X, some X, none, some O, some O, none, some X] X O = (some 7, 0) := by
  rw [minimaxL_succ 2 [some O, none, some X, some X, none, some O, some O, none, some X] X O [1, 4, 7] rfl rfl (List.cons_ne_nil _ _)]
  show pickBest [(1, (minimaxL 2 [some O, some X, some X, some X, none, some O, some O, none, some X] O X).2), (4, (minimaxL 2 [some O, none, some X, some X, some X, some O, some O, none, some X] O X).2), (7, (minimaxL 2 [some O, none, some X, some X, none, some O, some O, some X, some X] O X).2)] X = (some 7, 0)
  rw [mmv_1278, mmv_2473, mmv_2485]
  rfl

theorem mmv_2492 : minimaxL 2 [some O, none, some X, some X, some X, some O, none, some O, some X] O X = (some 6, 0) := by
  rw [minimaxL_succ 1 [some O, none, some X, some X, some X, some O, none, some O, some X] O X [1, 6] rfl rfl (List.cons_ne_nil _ _)]
  show pickBest [(1, (minimaxL 1 [some O, some O, some X, some X, some X, some O, none, some O, some X] X O).2), (6, (minimaxL 1 [some O, none, some X, some X, some X, some O, some O, some O, some X] X O).2)] O = (some 6, 0)
  rw [mmv_2450, mmv_2474]
  rfl

theorem mmv_2493 : minimaxL 2 [some O, none, some X, some X, none, some O, some X, some O, some X] O X = (some 4, 0) := by
  rw [minimaxL_succ 1 [some O, none, some X, some X, none, some O, some X, some O, some X] O X [1, 4] rfl rfl (List.cons_ne_nil _ _)]
  show pickBest [(1, (minimaxL 1 [some O, some O, some X, some X, none, some O, some X, some O, some X] X O).2), (4, (minimaxL 1 [some O, none, some X, some X, some O, some O, some X, some O, some X] X O).2)] O = (some 4, 0)
  rw [mmv_2453, mmv_2463]
  rfl

theorem mmv_2491 : minimaxL 3 [some O, none, some X, some X, none, some O, none, some O, some X] X O = (some 6, 0) := by
  rw [minimaxL_succ 2 [some O, none, some X, some X, none, some O, none, some O, some X] X O [1, 4, 6] rfl rfl (List.cons_ne_nil _ _)]
  show pickBest [(1, (minimaxL 2 [some O, some X, some X, some X, none, some O, none, some O, some X] O X).2), (4, (minimaxL 2 [some O, none, some X, some X, some X, some O, none, some O, some X] O X).2), (6, (minimaxL 2 [some O, none, some X, some X, none, some O, some X, some O, some X] O X).2)] X = (some 6, 0)
  rw [mmv_1286, mmv_2492, mmv_2493]
  rfl

theorem mmv_2489 : minimaxL 4 [some O, none, some X, some X, none, some O, none, none, some X] O X = (some 4, 0) := by
  rw [minimaxL_succ 3 [some O, none, some X, some X, none, some O, none, none, some X] O X [1, 4, 6, 7] rfl rfl (List.cons_ne_nil _ _)]
  show pickBest [(1, (minimaxL 3 [some O, some O, some X, some X, none, some O, none, none, some X] X O).2), (4, (minimaxL 3 [some O, none, some X, some X, some O, some O, none, none, some X] X O).2), (6, (minimaxL 3 [some O, none, some X, some X, none, some O, some O, none, some X] X O).2), (7, (minimaxL 3 [some O, none, some X, some X, none, some O, none, some O, some X] X O).2)] O = (some 4, 0)
  rw [mmv_2447, mmv_2461, mmv_2490, mmv_2491]
  rfl

theorem mmv_2468 : minimaxL 5 [some O, none, some X, some X, none, some O, none, none, none] X O = (some 8, 0) := by
  rw [minimaxL_succ 4 [some O, none, some X, some X, none, some O, none, none, none] X O [1, 4, 6, 7, 8] rfl rfl (List.cons_ne_nil _ _)]
  show pickBest [(1, (minimaxL 4 [some O, some X, some X, some X, none, some O, none, none, none] O X).2), (4, (minimaxL 4 [some O, none, some X, some X, some X, some O, none, none, none] O X).2), (6, (minimaxL 4 [some O, none, some X, some X, none, some O, some X, none, none] O X).2), (7, (minimaxL 4 [some O, none, some X, some X, none, some O, none, some X, none] O X).2), (8, (minimaxL 4 [some O, none, some X, some X, none, some O, none, none, some X] O X).2)] X = (some 8, 0)
  rw [mmv_1266, mmv_2469, mmv_2477, mmv_2482, mmv_2489]
  rfl

theorem mmv_2496 : minimaxL 3 [some O, none, some X, some X, some X, none, some O, some O, none] X O = (some 5, 1) := rfl

theorem mmv_2497 : minimaxL 3 [some O, none, some X, some X, some X, none, some O, none, some O] X O = (some 5, 1) := rfl

theorem mmv_2495 : minimaxL 4 [some O, none, some X, some X, some X, none, some O, none, none] O X = (some 5, 0) := by
  rw [minimaxL_succ 3 [some O, none, some X, some X, some X, none, some O, none, none] O X [1, 5, 7, 8] rfl rfl (List.cons_ne_nil _ _)]
  show pickBest [(1, (minimaxL 3 [some O, some O, some X, some X, some X, none, some O, none, none] X O).2), (5, (minimaxL 3 [some O, none, some X, some X, some X, some O, some O, none, none] X O).2), (7, (minimaxL 3 [some O, none, some X, some X, some X, none, some O, some O, none] X O).2), (8, (minimaxL 3 [some O, none, some X, some X, some X, none, some O, none, some O] X O).2)] O = (some 5, 0)
  rw [mmv_2402, mmv_2470, mmv_2496, mmv_2497]
  rfl

theorem mmv_2499 : minimaxL 3 [some O, none, some X, some X, some O, some X, some O, none, none] X O = (some 8, 1) := rfl

theorem mmv_2500 : minimaxL 3 [some O, none, some X, some X, none, some X, some O, some O, none] X O = (some 8, 1) := rfl

theorem mmv_2501 : minimaxL 3 [some O, none, some X, some X, none, some X, some O, none, some O] X O = (some 4, 1) := rfl

theorem mmv_2498 : minimaxL 4 [some O, none, some X, some X, none, some X, some O, none, none] O X = (some 1, 1) := by
  rw [minimaxL_succ 3 [some O, none, some X, some X, none, some X, some O, none, none] O X [1, 4, 7, 8] rfl rfl (List.cons_ne_nil _ _)]
  show pickBest [(1, (minimaxL 3 [some O, some O, some X, some X, none, some X, some O, none, none] X O).2), (4, (minimaxL 3 [some O, none, some X, some X, some O, some X, some O, none, none] X O).2), (7, (minimaxL 3 [some O, none, some X, some X, none, some X, some O, some O, none] X O).2), (8, (minimaxL 3 [some O, none, some X, some X, none, some X, some O, none, some O] X O).2)] O = (some 1, 1)
  rw [mmv_2407, mmv_2499, mmv_2500, mmv_2501]
  rfl

theorem mmv_2504 : minimaxL 2 [some O, none, some X, some X, some O, some X, some O, some X, none] O X = (some 8, -1) := rfl

theorem mmv_2505 : minimaxL 2 [some O, none, some X, some X, some O, none, some O, some X, some X] O X = (some 5, 0) := by
  rw [minimaxL_succ 1 [some O, none, some X, some X, some O, none, some O, some X, some X] O X [1, 5] rfl rfl (List.cons_ne_nil _ _)]
  show pickBest [(1, (minimaxL 1 [some O, some O, some X, some X, some O, none, some O, some X, some X] X O).2), (5, (minimaxL 1 [some O, none, some X, some X, some O, some O, some O, some X, some X] X O).2)] O = (some 5, 0)
  rw [mmv_2423, mmv_2465]
  rfl

theorem mmv_2503 : minimaxL 3 [some O, none, some X, some X, some O, none, some O, some X, none] X O = (some 8, 0) := by
  rw [minimaxL_succ 2 [some O, none, some X, some X, some O, none, some O, some X, none] X O [1, 5, 8] rfl rfl (List.cons_ne_nil _ _)]
  show pickBest [(1, (minimaxL 2 [some O, some X, some X, some X, some O, none, some O, some X, none] O X).2), (5, (minimaxL 2 [some O, none, some X, some X, some O, some X, some O, some X, none] O X).2), (8, (minimaxL 2 [some O, none, some X, some X, some O, none, some O, some X, some X] O X).2)] X = (some 8, 0)
  rw [mmv_1325, mmv_2504, mmv_2505]
  rfl

theorem mmv_2507 : minimaxL 2 [some O, none, some X, some X, some X, none, some O, some X, some O] O X = (some 1, 1) := by
  rw [minimaxL_succ 1 [some O, none, some X, some X, some X, none, some O, some X, some O] O X [1, 5] rfl rfl (List.cons_ne_nil _ _)]
  show pickBest [(1, (minimaxL 1 [some O, some O, some X, some X, some X, none, some O, some X, some O] X O).2), (5, (minimaxL 1 [some O, none, some X, some X, some X, some O, some O, some X, some O] X O).2)] O = (some 1, 1)
  rw [mmv_2436, mmv_2472]
  rfl

theorem mmv_2508 : minimaxL 2 [some O, none, some X, some X, none, some X, some O, some X, some O] O X = (some 4, -1) := rfl

theorem mmv_2506 : minimaxL 3 [some O, none, some X, some X, none, none, some O, some X, some O] X O = (some 4, 1) := by
  rw [minimaxL_succ 2 [some O, none, some X, some X, none, none, some O, some X, some O] X O [1, 4, 5] rfl rfl (List.cons_ne_nil _ _)]
  show pickBest [(1, (minimaxL 2 [some O, some X, some X, some X, none, none, some O, some X, some O] O X).2), (4, (minimaxL 2 [some O, none, some X, some X, some X, none, some O, some X, some O] O X).2), (5, (minimaxL 2 [some O, none, some X, some X, none, some X, some O, some X, some O] O X).2)] X = (some 4, 1)
  rw [mmv_1335, mmv_2507, mmv_2508]
  rfl

theorem mmv_2502 : minimaxL 4 [some O, none, some X, some X, none, none, some O, some X, none] O X = (some 4, 0) := by
  rw [minimaxL_succ 3 [some O, none, some X, some X, none, none, some O, some X, none] O X [1, 4, 5, 8] rfl rfl (List.cons_ne_nil _ _)]
  show pickBest [(1, (minimaxL 3 [some O, some O, some X, some X, none, none, some O, some X, none] X O).2), (4, (minimaxL 3 [some O, none, some X, some X, some O, none, some O, some X, none] X O).2), (5, (minimaxL 3 [some O, none, some X, some X, none, some O, some O, some X, none] X O).2), (8, (minimaxL 3 [some O, none, some X, some X, none, none, some O, some X, some O] X O).2)] O = (some 4, 0)
  rw [mmv_2434, mmv_2503, mmv_2484, mmv_2506]
  rfl

theorem mmv_2510 : minimaxL 3 [some O, none, some X, some X, none, none, some O, some O, some X] X O = (some 5, 1) := rfl

theorem mmv_2509 : minimaxL 4 [some O, none, some X, some X, none, none, some O, none, some X] O X = (some 5, 0) := by
  rw [minimaxL_succ 3 [some O, none, some X, some X, none, none, some O, none, some X] O X [1, 4, 5, 7] rfl rfl (List.cons_ne_nil _ _)]
  show pickBest [(1, (minimaxL 3 [some O, some O, some X, some X, none, none, some O, none, some X] X O).2), (4, (minimaxL 3 [some O, none, some X, some X, some O, none, some O, none, some X] X O).2), (5, (minimaxL 3 [some O, none, some X, some X, none, some O, some O, none, some X] X O).2), (7, (minimaxL 3 [some O, none, some X, some X, none, none, some O, some O, some X] X O).2)] O = (some 5, 0)
  rw [mmv_2454, mmv_2466, mmv_2490, mmv_2510]
  rfl

theorem mmv_2494 : minimaxL 5 [some O, none, some X, some X, none, none, some O, none, none] X O = (some 5, 1) := by
  rw [minimaxL_succ 4 [some O, none, some X, some X, none, none, some O, none, none] X O [1, 4, 5, 7, 8] rfl rfl (List.cons_ne_nil _ _)]
  show pickBest [(1, (minimaxL 4 [some O, some X, some X, some X, none, none, some O, none, none] O X).2), (4, (minimaxL 4 [some O, none, some X, some X, some X, none, some O, none, none] O X).2), (5, (minimaxL 4 [some O, none, some X, some X, none, some X, some O, none, none] O X).2), (7, (minimaxL 4 [some O, none, some X, some X, none, none, some O, some X, none] O X).2), (8, (minimaxL 4 [some O, none, some X, some X, none, none, some O, none, some X] O X).2)] X = (some 5, 1)
  rw [mmv_1322, mmv_2495, mmv_2498, mmv_2502, mmv_2509]
  rfl

theorem mmv_2513 : minimaxL 3 [some O, none, some X, some X, some X, none, none, some O, some O] X O = (some 6, 1) := rfl

theorem mmv_2512 : minimaxL 4 [some O, none, some X, some X, some X, none, none, some O, none] O X = (some 1, 1) := by
  rw [minimaxL_succ 3 [some O, none, some X, some X, some X, none, none, some O, none] O X [1, 5, 6, 8] rfl rfl (List.cons_ne_nil _ _)]
  show pickBest [(1, (minimaxL 3 [some O, some O, some X, some X, some X, none, none, some O, none] X O).2), (5, (minimaxL 3 [some O, none, some X, some X, some X, some O, none, some O, none] X O).2), (6, (minimaxL 3 [some O, none, some X, some X, some X, none, some O, some O, none] X O).2), (8, (minimaxL 3 [some O, none, some X, some X, some X, none, none, some O, some O] X O).2)] O = (some 1, 1)
  rw [mmv_2403, mmv_2475, mmv_2496, mmv_2513]
  rfl

theorem mmv_2515 : minimaxL 3 [some O, none, some X, some X, some O, some X, none, some O, none] X O = (some 8, 1) := rfl

theorem mmv_2516 : minimaxL 3 [some O, none, some X, some X, none, some X, none, some O, some O] X O = (some 4, 1) := rfl

theorem mmv_2514 : minimaxL 4 [some O, none, some X, some X, none, some X, none, some O, none] O X = (some 1, 1) := by
  rw [minimaxL_succ 3 [some O, none, some X, some X, none, some X, none, some O, none] O X [1, 4, 6, 8] rfl rfl (List.cons_ne_nil _ _)]
  show pickBest [(1, (minimaxL 3 [some O, some O, some X, some X, none, some X, none, some O, none] X O).2), (4, (minimaxL 3 [some O, none, some X, some X, some O, some X, none, some O, none] X O).2), (6, (minimaxL 3 [some O, none, some X, some X, none, some X, some O, some O, none] X O).2), (8, (minimaxL 3 [some O, none, some X, some X, none, some X, none, some O, some O] X O).2)] O = (some 1, 1)
  rw [mmv_2408, mmv_2515, mmv_2500, mmv_2516]
  rfl

theorem mmv_2519 : minimaxL 2 [some O, none, some X, some X, some O, some X, some X, some O, none] O X = (some 8, -1) := rfl

theorem mmv_2520 : minimaxL 2 [some O, none, some X, some X, some O, none, some X, some O, some X] O X = (some 1, -1) := rfl

theorem mmv_2518 : minimaxL 3 [some O, none, some X, some X, some O, none, some X, some O, none] X O = (some 8, -1) := by
  rw [minimaxL_succ 2 [some O, none, some X, some X, some O, none, some X, some O, none] X O [1, 5, 8] rfl rfl (List.cons_ne_nil _ _)]
  show pickBest [(1, (minimaxL 2 [some O, some X, some X, some X, some O, none, some X, some O, none] O X).2), (5, (minimaxL 2 [some O, none, some X, some X, some O, some X, some X, some O, none] O X).2), (8, (minimaxL 2 [some O, none, some X, some X, some O, none, some X, some O, some X] O X).2)] X = (some 8, -1)
  rw [mmv_1344, mmv_2519, mmv_2520]
  rfl

theorem mmv_2521 : minimaxL 3 [some O, none, some X, some X, none, none, some X, some O, some O] X O = (some 4, 1) := rfl

theorem mmv_2517 : minimaxL 4 [some O, none, some X, some X, none, none, some X, some O, none] O X = (some 4, -1) := by
  rw [minimaxL_succ 3 [some O, none, some X, some X, none, none, some X, some O, none] O X [1, 4, 5, 8] rfl rfl (List.cons_ne_nil _ _)]
  show pickBest [(1, (minimaxL 3 [some O, some O, some X, some X, none, none, some X, some O, none] X O).2), (4, (minimaxL 3 [some O, none, some X, some X, some O, none, some X, some O, none] X O).2), (5, (minimaxL 3 [some O, none, some X, some X, none, some O, some X, some O, none] X O).2), (8, (minimaxL 3 [some O, none, some X, some X, none, none, some X, some O, some O] X O).2)] O = (some 4, -1)
  rw [mmv_2416, mmv_2518, mmv_2480, mmv_2521]
  rfl

theorem mmv_2522 : minimaxL 4 [some O, none, some X, some X, none, none, none, some O, some X] O X = (some 5, 0) := by
  rw [minimaxL_succ 3 [some O, none, some X, some X, none, none, none, some O, some X] O X [1, 4, 5, 6] rfl rfl (List.cons_ne_nil _ _)]
  show pickBest [(1, (minimaxL 3 [some O, some O, some X, some X, none, none, none, some O, some X] X O).2), (4, (minimaxL 3 [some O, none, some X, some X, some O, none, none, some O, some X] X O).2), (5, (minimaxL 3 [some O, none, some X, some X, none, some O, none, some O, some X] X O).2), (6, (minimaxL 3 [some O, none, some X, some X, none, none, some O, some O, some X] X O).2)] O = (some 5, 0)
  rw [mmv_2455, mmv_2467, mmv_2491, mmv_2510]
  rfl

theorem mmv_2511 : minimaxL 5 [some O, none, some X, some X, none, none, none, some O, none] X O = (some 5, 1) := by
  rw [minimaxL_succ 4 [some O, none, some X, some X, none, none, none, some O, none] X O [1, 4, 5, 6, 8] rfl rfl (List.cons_ne_nil _ _)]
  show pickBest [(1, (minimaxL 4 [some O, some X, some X, some X, none, none, none, some O, none] O X).2), (4, (minimaxL 4 [some O, none, some X, some X, some X, none, none, some O, none] O X).2), (5, (minimaxL 4 [some O, none, some X, some X, none, some X, none, some O, none] O X).2), (6, (minimaxL 4 [some O, none, some X, some X, none, none, some X, some O, none] O X).2), (8, (minimaxL 4 [some O, none, some X, some X, none, none, none, some O, some X] O X).2)] X = (some 5, 1)
  rw [mmv_1341, mmv_2512, mmv_2514, mmv_2517, mmv_2522]
  rfl

theorem mmv_2524 : minimaxL 4 [some O, none, some X, some X, some X, none, none, none, some O] O X = (some 1, 1) := by
  rw [minimaxL_succ 3 [some O, none, some X, some X, some X, none, none, none, some O] O X [1, 5, 6, 7] rfl rfl (List.cons_ne_nil _ _)]
  show pickBest [(1, (minimaxL 3 [some O, some O, some X, some X, some X, none, none, none, some O] X O).2), (5, (minimaxL 3 [some O, none, some X, some X, some X, some O, none, none, some O] X O).2), (6, (minimaxL 3 [some O, none, some X, some X, some X, none, some O, none, some O] X O).2), (7, (minimaxL 3 [some O, none, some X, some X, some X, none, none, some O, some O] X O).2)] O = (some 1, 1)
  rw [mmv_2404, mmv_2476, mmv_2497, mmv_2513]
  rfl

theorem mmv_2525 : minimaxL 4 [some O, none, some X, some X, none, some X, none, none, some O] O X = (some 4, -1) := rfl

theorem mmv_2526 : minimaxL 4 [some O, none, some X, some X, none, none, some X, none, some O] O X = (some 4, -1) := rfl

theorem mmv_2527 : minimaxL 4 [some O, none, some X, some X, none, none, none, some X, some O] O X = (some 4, -1) := rfl

theorem mmv_2523 : minimaxL 5 [some O, none, some X, some X, none, none, none, none, some O] X O = (some 4, 1) := by
  rw [minimaxL_succ 4 [some O, none, some X, some X, none, none, none, none, some O] X O [1, 4, 5, 6, 7] rfl rfl (List.cons_ne_nil _ _)]
  show pickBest [(1, (minimaxL 4 [some O, some X, some X, some X, none, none, none, none, some O] O X).2), (4, (minimaxL 4 [some O, none, some X, some X, some X, none, none, none, some O] O X).2), (5, (minimaxL 4 [some O, none, some X, some X, none, some X, none, none, some O] O X).2), (6, (minimaxL 4 [some O, none, some X, some X, none, none, some X, none, some O] O X).2), (7, (minimaxL 4 [some O, none, some X, some X, none, none, none, some X, some O] O X).2)] X = (some 4, 1)
  rw [mmv_1373, mmv_2524, mmv_2525, mmv_2526, mmv_2527]
  rfl

theorem mmv_2398 : minimaxL 6 [some O, none, some X, some X, none, none, none, none, none] O X = (some 4, 0) := by
  rw [minimaxL_succ 5 [some O, none, some X, some X, none, none, none, none, none] O X [1, 4, 5, 6, 7, 8] rfl rfl (List.cons_ne_nil _ _)]
  show pickBest [(1, (minimaxL 5 [some O, some O, some X, some X, none, none, none, none, none] X O).2), (4, (minimaxL 5 [some O, none, some X, some X, some O, none, none, none, none] X O).2), (5, (minimaxL 5 [some O, none, some X, some X, none, some O, none, none, none] X O).2), (6, (minimaxL 5 [some O, none, some X, some X, none, none, some O, none, none] X O).2), (7, (minimaxL 5 [some O, none, some X, some X, none, none, none, some O, none] X O).2), (8, (minimaxL 5 [some O, none, some X, some X, none, none, none, none, some O] X O).2)] O = (some 4, 0)
  rw [mmv_2399, mmv_2456, mmv_2468, mmv_2494, mmv_2511, mmv_2523]
  rfl

theorem mmv_2529 : minimaxL 5 [some O, some O, some X, none, some X, none, none, none, none] X O = (some 6, 1) := rfl

theorem mmv_2530 : minimaxL 5 [some O, none, some X, some O, some X, none, none, none, none] X O = (some 6, 1) := rfl

theorem mmv_2531 : minimaxL 5 [some O, none, some X, none, some X, some O, none, none, none] X O = (some 6, 1) := rfl

theorem mmv_2533 : minimaxL 4 [some O, none, some X, none, some X, some X, some O, none, none] O X = (some 3, -1) := rfl

theorem mmv_2534 : minimaxL 4 [some O, none, some X, none, some X, none, some O, some X, none] O X = (some 3, -1) := rfl

theorem mmv_2535 : minimaxL 4 [some O, none, some X, none, some X, none, some O, none, some X] O X = (some 3, -1) := rfl

theorem mmv_2532 : minimaxL 5 [some O, none, some X, none, some X, none, some O, none, none] X O = (some 3, 0) := by
  rw [minimaxL_succ 4 [some O, none, some X, none, some X, none, some O, none, none] X O [1, 3, 5, 7, 8] rfl rfl (List.cons_ne_nil _ _)]
  show pickBest [(1, (minimaxL 4 [some O, some X, some X, none, some X, none, some O, none, none] O X).2), (3, (minimaxL 4 [some O, none, some X, some X, some X, none, some O, none, none] O X).2), (5, (minimaxL 4 [some O, none, some X, none, some X, some X, some O, none, none] O X).2), (7, (minimaxL 4 [some O, none, some X, none, some X, none, some O, some X, none] O X).2), (8, (minimaxL 4 [some O, none, some X, none, some X, none, some O, none, some X] O X).2)] X = (some 3, 0)
  rw [mmv_1336, mmv_2495, mmv_2533, mmv_2534, mmv_2535]
  rfl

theorem mmv_2536 : minimaxL 5 [some O, none, some X, none, some X, none, none, some O, none] X O = (some 6, 1) := rfl

theorem mmv_2537 : minimaxL 5 [some O, none, some X, none, some X, none, none, none, some O] X O = (some 6, 1) := rfl

theorem mmv_2528 : minimaxL 6 [some O, none, some X, none, some X, none, none, none, none] O X = (some 6, 0) := by
  rw [minimaxL_succ 5 [some O, none, some X, none, some X, none, none, none, none] O X [1, 3, 5, 6, 7, 8] rfl rfl (List.cons_ne_nil _ _)]
  show pickBest [(1, (minimaxL 5 [some O, some O, some X, none, some X, none, none, none, none] X O).2), (3, (minimaxL 5 [some O, none, some X, some O, some X, none, none, none, none] X O).2), (5, (minimaxL 5 [some O, none, some X, none, some X, some O, none, none, none] X O).2), (6, (minimaxL 5 [some O, none, some X, none, some X, none, some O, none, none] X O).2), (7, (minimaxL 5 [some O, none, some X, none, some X, none, none, some O, none] X O).2), (8, (minimaxL 5 [some O, none, some X, none, some X, none, none, none, some O] X O).2)] O = (some 6, 0)
  rw [mmv_2529, mmv_2530, mmv_2531, mmv_2532, mmv_2536, mmv_2537]
  rfl

theorem mmv_2539 : minimaxL 5 [some O, some O, some X, none, none, some X, none, none, none] X O = (some 8, 1) := rfl

theorem mmv_2540 : minimaxL 5 [some O, none, some X, some O, none, some X, none, none, none] X O = (some 8, 1) := rfl

theorem mmv_2541 : minimaxL 5 [some O, none, some X, none, some O, some X, none, none, none] X O = (some 8, 1) := rfl

theorem mmv_2542 : minimaxL 5 [some O, none, some X, none, none, some X, some O, none, none] X O = (some 8, 1) := rfl

theorem mmv_2543 : minimaxL 5 [some O, none, some X, none, none, some X, none, some O, none] X O = (some 8, 1) := rfl

theorem mmv_2546 : minimaxL 3 [some O, some O, some X, none, some X, some X, none, none, some O] X O = (some 6, 1) := rfl

theorem mmv_2547 : minimaxL 3 [some O, none, some X, some O, some X, some X, none, none, some O] X O = (some 6, 1) := rfl

theorem mmv_2548 : minimaxL 3 [some O, none, some X, none, some X, some X, some O, none, some O] X O = (some 3, 1) := rfl

theorem mmv_2549 : minimaxL 3 [some O, none, some X, none, some X, some X, none, some O, some O] X O = (some 6, 1) := rfl

theorem mmv_2545 : minimaxL 4 [some O, none, some X, none, some X, some X, none, none, some O] O X = (some 1, 1) := by
  rw [minimaxL_succ 3 [some O, none, some X, none, some X, some X, none, none, some O] O X [1, 3, 6, 7] rfl rfl (List.cons_ne_nil _ _)]
  show pickBest [(1, (minimaxL 3 [some O, some O, some X, none, some X, some X, none, none, some O] X O).2), (3, (minimaxL 3 [some O, none, some X, some O, some X, some X, none, none, some O] X O).2), (6, (minimaxL 3 [some O, none, some X, none, some X, some X, some O, none, some O] X O).2), (7, (minimaxL 3 [some O, none, some X, none, some X, some X, none, some O, some O] X O).2)] O = (some 1, 1)
  rw [mmv_2546, mmv_2547, mmv_2548, mmv_2549]
  rfl

theorem mmv_2550 : minimaxL 4 [some O, none, some X, none, none, some X, some X, none, some O] O X = (some 4, -1) := rfl

theorem mmv_2551 : minimaxL 4 [some O, none, some X, none, none, some X, none, some X, some O] O X = (some 4, -1) := rfl

theorem mmv_2544 : minimaxL 5 [some O, none, some X, none, none, some X, none, none, some O] X O = (some 4, 1) := by
  rw [minimaxL_succ 4 [some O, none, some X, none, none, some X, none, none, some O] X O [1, 3, 4, 6, 7] rfl rfl (List.cons_ne_nil _ _)]
  show pickBest [(1, (minimaxL 4 [some O, some X, some X, none, none, some X, none, none, some O] O X).2), (3, (minimaxL 4 [some O, none, some X, some X, none, some X, none, none, some O] O X).2), (4, (minimaxL 4 [some O, none, some X, none, some X, some X, none, none, some O] O X).2), (6, (minimaxL 4 [some O, none, some X, none, none, some X, some X, none, some O] O X).2), (7, (minimaxL 4 [some O, none, some X, none, none, some X, none, some X, some O] O X).2)] X = (some 4, 1)
  rw [mmv_1377, mmv_2525, mmv_2545, mmv_2550, mmv_2551]
  rfl

theorem mmv_2538 : minimaxL 6 [some O, none, some X, none, none, some X, none, none, none] O X = (some 1, 1) := by
  rw [minimaxL_succ 5 [some O, none, some X, none, none, some X, none, none, none] O X [1, 3, 4, 6, 7, 8] rfl rfl (List.cons_ne_nil _ _)]
  show pickBest [(1, (minimaxL 5 [some O, some O, some X, none, none, some X, none, none, none] X O).2), (3, (minimaxL 5 [some O, none, some X, some O, none, some X, none, none, none] X O).2), (4, (minimaxL 5 [some O, none, some X, none, some O, some X, none, none, none] X O).2), (6, (minimaxL 5 [some O, none, some X, none, none, some X, some O, none, none] X O).2), (7, (minimaxL 5 [some O, none, some X, none, none, some X, none, some O, none] X O).2), (8, (minimaxL 5 [some O, none, some X, none, none, some X, none, none, some O] X O).2)] O = (some 1, 1)
  rw [mmv_2539, mmv_2540, mmv_2541, mmv_2542, mmv_2543, mmv_2544]
  rfl

theorem mmv_2553 : minimaxL 5 [some O, some O, some X, none, none, none, some X, none, none] X O = (some 4, 1) := rfl

theorem mmv_2554 : minimaxL 5 [some O, none, some X, some O, none, none, some X, none, none] X O = (some 4, 1) := rfl

theorem mmv_2556 : minimaxL 4 [some O, none, some X, none, some O, some X, some X, none, none] O X = (some 8, -1) := rfl

theorem mmv_2557 : minimaxL 4 [some O, none, some X, none, some O, none, some X, some X, none] O X = (some 8, -1) := rfl

theorem mmv_2559 : minimaxL 3 [some O, some O, some X, none, some O, none, some X, none, some X] X O = (some 5, 1) := rfl

theorem mmv_2560 : minimaxL 3 [some O, none, some X, some O, some O, none, some X, none, some X] X O = (some 5, 1) := rfl

theorem mmv_2561 : minimaxL 3 [some O, none, some X, none, some O, some O, some X, none, some X] X O = (some 7, 1) := rfl

theorem mmv_2562 : minimaxL 3 [some O, none, some X, none, some O, none, some X, some O, some X] X O = (some 5, 1) := rfl

theorem mmv_2558 : minimaxL 4 [some O, none, some X, none, some O, none, some X, none, some X] O X = (some 1, 1) := by
  rw [minimaxL_succ 3 [some O, none, some X, none, some O, none, some X, none, some X] O X [1, 3, 5, 7] rfl rfl (List.cons_ne_nil _ _)]
  show pickBest [(1, (minimaxL 3 [some O, some O, some X, none, some O, none, some X, none, some X] X O).2), (3, (minimaxL 3 [some O, none, some X, some O, some O, none, some X, none, some X] X O).2), (5, (minimaxL 3 [some O, none, some X, none, some O, some O, some X, none, some X] X O).2), (7, (minimaxL 3 [some O, none, some X, none, some O, none, some X, some O, some X] X O).2)] O = (some 1, 1)
  rw [mmv_2559, mmv_2560, mmv_2561, mmv_2562]
  rfl

theorem mmv_2555 : minimaxL 5 [some O, none, some X, none, some O, none, some X, none, none] X O = (some 8, 1) := by
  rw [minimaxL_succ 4 [some O, none, some X, none, some O, none, some X, none, none] X O [1, 3, 5, 7, 8] rfl rfl (List.cons_ne_nil _ _)]
  show pickBest [(1, (minimaxL 4 [some O, some X, some X, none, some O, none, some X, none, none] O X).2), (3, (minimaxL 4 [some O, none, some X, some X, some O, none, some X, none, none] O X).2), (5, (minimaxL 4 [some O, none, some X, none, some O, some X, some X, none, none] O X).2), (7, (minimaxL 4 [some O, none, some X, none, some O, none, some X, some X, none] O X).2), (8, (minimaxL 4 [some O, none, some X, none, some O, none, some X, none, some X] O X).2)] X = (some 8, 1)
  rw [mmv_1251, mmv_2458, mmv_2556, mmv_2557, mmv_2558]
  rfl

theorem mmv_2563 : minimaxL 5 [some O, none, some X, none, none, some O, some X, none, none] X O = (some 4, 1) := rfl

theorem mmv_2564 : minimaxL 5 [some O, none, some X, none, none, none, some X, some O, none] X O = (some 4, 1) := rfl

theorem mmv_2565 : minimaxL 5 [some O, none, some X, none, none, none, some X, none, some O] X O = (some 4, 1) := rfl

theorem mmv_2552 : minimaxL 6 [some O, none, some X, none, none, none, some X, none, none] O X = (some 1, 1) := by
  rw [minimaxL_succ 5 [some O, none, some X, none, none, none, some X, none, none] O X [1, 3, 4, 5, 7, 8] rfl rfl (List.cons_ne_nil _ _)]
  show pickBest [(1, (minimaxL 5 [some O, some O, some X, none, none, none, some X, none, none] X O).2), (3, (minimaxL 5 [some O, none, some X, some O, none, none, some X, none, none] X O).2), (4, (minimaxL 5 [some O, none, some X, none, some O, none, some X, none, none] X O).2), (5, (minimaxL 5 [some O, none, some X, none, none, some O, some X, none, none] X O).2), (7, (minimaxL 5 [some O, none, some X, none, none, none, some X, some O, none] X O).2), (8, (minimaxL 5 [some O, none, some X, none, none, none, some X, none, some O] X O).2)] O = (some 1, 1)
  rw [mmv_2553, mmv_2554, mmv_2555, mmv_2563, mmv_2564, mmv_2565]
  rfl

theorem mmv_2569 : minimaxL 3 [some O, some O, some X, some O, some X, none, none, some X, none] X O = (some 6, 1) := rfl

theorem mmv_2570 : minimaxL 3 [some O, some O, some X, none, some X, some O, none, some X, none] X O = (some 6, 1) := rfl

theorem mmv_2572 : minimaxL 2 [some O, some O, some X, none, some X, some X, some O, some X, none] O X = (some 3, -1) := rfl

theorem mmv_2573 : minimaxL 2 [some O, some O, some X, none, some X, none, some O, some X, some X] O X = (some 3, -1) := rfl

theorem mmv_2571 : minimaxL 3 [some O, some O, some X, none, some X, none, some O, some X, none] X O = (some 3, 0) := by
  rw [minimaxL_succ 2 [some O, some O, some X, none, some X, none, some O, some X, none] X O [3, 5, 8] rfl rfl (List.cons_ne_nil _ _)]
  show pickBest [(3, (minimaxL 2 [some O, some O, some X, some X, some X, none, some O, some X, none] O X).2), (5, (minimaxL 2 [some O, some O, some X, none, some X, some X, some O, some X, none] O X).2), (8, (minimaxL 2 [some O, some O, some X, none, some X, none, some O, some X, some X] O X).2)] X = (some 3, 0)
  rw [mmv_2435, mmv_2572, mmv_2573]
  rfl

theorem mmv_2574 : minimaxL 3 [some O, some O, some X, none, some X, none, none, some X, some O] X O = (some 6, 1) := rfl

theorem mmv_2568 : minimaxL 4 [some O, some O, some X, none, some X, none, none, some X, none] O X = (some 6, 0) := by
  rw [minimaxL_succ 3 [some O, some O, some X, none, some X, none, none, some X, none] O X [3, 5, 6, 8] rfl rfl (List.cons_ne_nil _ _)]
  show pickBest [(3, (minimaxL 3 [some O, some O, some X, some O, some X, none, none, some X, none] X O).2), (5, (minimaxL 3 [some O, some O, some X, none, some X, some O, none, some X, none] X O).2), (6, (minimaxL 3 [some O, some O, some X, none, some X, none, some O, some X, none] X O).2), (8, (minimaxL 3 [some O, some O, some X, none, some X, none, none, some X, some O] X O).2)] O = (some 6, 0)
  rw [mmv_2569, mmv_2570, mmv_2571, mmv_2574]
  rfl

theorem mmv_2576 : minimaxL 3 [some O, some O, some X, some O, none, some X, none, some X, none] X O = (some 8, 1) := rfl

theorem mmv_2577 : minimaxL 3 [some O, some O, some X, none, some O, some X, none, some X, none] X O = (some 8, 1) := rfl

theorem mmv_2578 : minimaxL 3 [some O, some O, some X, none, none, some X, some O, some X, none] X O = (some 8, 1) := rfl

theorem mmv_2581 : minimaxL 1 [some O, some O, some X, some O, some X, some X, none, some X, some O] X O = (some 6, 1) := rfl

theorem mmv_2582 : minimaxL 1 [some O, some O, some X, none, some X, some X, some O, some X, some O] X O = (some 3, 1) := rfl

theorem mmv_2580 : minimaxL 2 [some O, some O, some X, none, some X, some X, none, some X, some O] O X = (some 3, 1) := by
  rw [minimaxL_succ 1 [some O, some O, some X, none, some X, some X, none, some X, some O] O X [3, 6] rfl rfl (List.cons_ne_nil _ _)]
  show pickBest [(3, (minimaxL 1 [some O, some O, some X, some O, some X, some X, none, some X, some O] X O).2), (6, (minimaxL 1 [some O, some O, some X, none, some X, some X, some O, some X, some O] X O).2)] O = (some 3, 1)
  rw [mmv_2581, mmv_2582]
  rfl

theorem mmv_2583 : minimaxL 2 [some O, some O, some X, none, none, some X, some X, some X, some O] O X = (some 4, -1) := rfl

theorem mmv_2579 : minimaxL 3 [some O, some O, some X, none, none, some X, none, some X, some O] X O = (some 4, 1) := by
  rw [minimaxL_succ 2 [some O, some O, some X, none, none, some X, none, some X, some O] X O [3, 4, 6] rfl rfl (List.cons_ne_nil _ _)]
  show pickBest [(3, (minimaxL 2 [some O, some O, some X, some X, none, some X, none, some X, some O] O X).2), (4, (minimaxL 2 [some O, some O, some X, none, some X, some X, none, some X, some O] O X).2), (6, (minimaxL 2 [some O, some O, some X, none, none, some X, some X, some X, some O] O X).2)] X = (some 4, 1)
  rw [mmv_2443, mmv_2580, mmv_2583]
  rfl

theorem mmv_2575 : minimaxL 4 [some O, some O, some X, none, none, some X, none, some X, none] O X = (some 3, 1) := by
  rw [minimaxL_succ 3 [some O, some O, some X, none, none, some X, none, some X, none] O X [3, 4, 6, 8] rfl rfl (List.cons_ne_nil _ _)]
  show pickBest [(3, (minimaxL 3 [some O, some O, some X, some O, none, some X, none, some X, none] X O).2), (4, (minimaxL 3 [some O, some O, some X, none, some O, some X, none, some X, none] X O).2), (6, (minimaxL 3 [some O, some O, some X, none, none, some X, some O, some X, none] X O).2), (8, (minimaxL 3 [some O, some O, some X, none, none, some X, none, some X, some O] X O).2)] O = (some 3, 1)
  rw [mmv_2576, mmv_2577, mmv_2578, mmv_2579]
  rfl

theorem mmv_2585 : minimaxL 3 [some O, some O, some X, some O, none, none, some X, some X, none] X O = (some 4, 1) := rfl

theorem mmv_2586 : minimaxL 3 [some O, some O, some X, none, some O, none, some X, some X, none] X O = (some 8, 1) := rfl

theorem mmv_2587 : minimaxL 3 [some O, some O, some X, none, none, some O, some X, some X, none] X O = (some 4, 1) := rfl

theorem mmv_2588 : minimaxL 3 [some O, some O, some X, none, none, none, some X, some X, some O] X O = (some 4, 1) := rfl

theorem mmv_2584 : minimaxL 4 [some O, some O, some X, none, none, none, some X, some X, none] O X = (some 3, 1) := by
  rw [minimaxL_succ 3 [some O, some O, some X, none, none, none, some X, some X, none] O X [3, 4, 5, 8] rfl rfl (List.cons_ne_nil _ _)]
  show pickBest [(3, (minimaxL 3 [some O, some O, some X, some O, none, none, some X, some X, none] X O).2), (4, (minimaxL 3 [some O, some O, some X, none, some O, none, some X, some X, none] X O).2), (5, (minimaxL 3 [some O, some O, some X, none, none, some O, some X, some X, none] X O).2), (8, (minimaxL 3 [some O, some O, some X, none, none, none, some X, some X, some O] X O).2)] O = (some 3, 1)
  rw [mmv_2585, mmv_2586, mmv_2587, mmv_2588]
  rfl

theorem mmv_2590 : minimaxL 3 [some O, some O, some X, some O, none, none, none, some X, some X] X O = (some 5, 1) := rfl

theorem mmv_2591 : minimaxL 3 [some O, some O, some X, none, some O, none, none, some X, some X] X O = (some 5, 1) := rfl

theorem mmv_2592 : minimaxL 3 [some O, some O, some X, none, none, some O, none, some X, some X] X O = (some 6, 1) := rfl

theorem mmv_2593 : minimaxL 3 [some O, some O, some X, none, none, none, some O, some X, some X] X O = (some 5, 1) := rfl

theorem mmv_2589 : minimaxL 4 [some O, some O, some X, none, none, none, none, some X, some X] O X = (some 3, 1) := by
  rw [minimaxL_succ 3 [some O, some O, some X, none, none, none, none, some X, some X] O X [3, 4, 5, 6] rfl rfl (List.cons_ne_nil _ _)]
  show pickBest [(3, (minimaxL 3 [some O, some O, some X, some O, none, none, none, some X, some X] X O).2), (4, (minimaxL 3 [some O, some O, some X, none, some O, none, none, some X, some X] X O).2), (5, (minimaxL 3 [some O, some O, some X, none, none, some O, none, some X, some X] X O).2), (6, (minimaxL 3 [some O, some O, some X, none, none, none, some O, some X, some X] X O).2)] O = (some 3, 1)
  rw [mmv_2590, mmv_2591, mmv_2592, mmv_2593]
  rfl

theorem mmv_2567 : minimaxL 5 [some O, some O, some X, none, none, none, none, some X, none] X O = (some 8, 1) := by
  rw [minimaxL_succ 4 [some O, some O, some X, none, none, none, none, some X, none] X O [3, 4, 5, 6, 8] rfl rfl (List.cons_ne_nil _ _)]
  show pickBest [(3, (minimaxL 4 [some O, some O, some X, some X, none, none, none, some X, none] O X).2), (4, (minimaxL 4 [some O, some O, some X, none, some X, none, none, some X, none] O X).2), (5, (minimaxL 4 [some O, some O, some X, none, none, some X, none, some X, none] O X).2), (6, (minimaxL 4 [some O, some O, some X, none, none, none, some X, some X, none] O X).2), (8, (minimaxL 4 [some O, some O, some X, none, none, none, none, some X, some X] O X).2)] X = (some 8, 1)
  rw [mmv_2418, mmv_2568, mmv_2575, mmv_2584, mmv_2589]
  rfl

theorem mmv_2595 : minimaxL 4 [some O, none, some X, some O, some X, none, none, some X, none] O X = (some 6, -1) := rfl

theorem mmv_2596 : minimaxL 4 [some O, none, some X, some O, none, some X, none, some X, none] O X = (some 6, -1) := rfl

theorem mmv_2598 : minimaxL 3 [some O, none, some X, some O, some O, none, some X, some X, none] X O = (some 8, 1) := rfl

theorem mmv_2599 : minimaxL 3 [some O, none, some X, some O, none, some O, some X, some X, none] X O = (some 4, 1) := rfl

theorem mmv_2600 : minimaxL 3 [some O, none, some X, some O, none, none, some X, some X, some O] X O = (some 4, 1) := rfl

theorem mmv_2597 : minimaxL 4 [some O, none, some X, some O, none, none, some X, some X, none] O X = (some 1, 1) := by
  rw [minimaxL_succ 3 [some O, none, some X, some O, none, none, some X, some X, none] O X [1, 4, 5, 8] rfl rfl (List.cons_ne_nil _ _)]
  show pickBest [(1, (minimaxL 3 [some O, some O, some X, some O, none, none, some X, some X, none] X O).2), (4, (minimaxL 3 [some O, none, some X, some O, some O, none, some X, some X, none] X O).2), (5, (minimaxL 3 [some O, none, some X, some O, none, some O, some X, some X, none] X O).2), (8, (minimaxL 3 [some O, none, some X, some O, none, none, some X, some X, some O] X O).2)] O = (some 1, 1)
  rw [mmv_2585, mmv_2598, mmv_2599, mmv_2600]
  rfl

theorem mmv_2601 : minimaxL 4 [some O, none, some X, some O, none, none, none, some X, some X] O X = (some 6, -1) := rfl

theorem mmv_2594 : minimaxL 5 [some O, none, some X, some O, none, none, none, some X, none] X O = (some 6, 1) := by
  rw [minimaxL_succ 4 [some O, none, some X, some O, none, none, none, some X, none] X O [1, 4, 5, 6, 8] rfl rfl (List.cons_ne_nil _ _)]
  show pickBest [(1, (minimaxL 4 [some O, some X, some X, some O, none, none, none, some X, none] O X).2), (4, (minimaxL 4 [some O, none, some X, some O, some X, none, none, some X, none] O X).2), (5, (minimaxL 4 [some O, none, some X, some O, none, some X, none, some X, none] O X).2), (6, (minimaxL 4 [some O, none, some X, some O, none, none, some X, some X, none] O X).2), (8, (minimaxL 4 [some O, none, some X, some O, none, none, none, some X, some X] O X).2)] X = (some 6, 1)
  rw [mmv_1246, mmv_2595, mmv_2596, mmv_2597, mmv_2601]
  rfl

theorem mmv_2603 : minimaxL 4 [some O, none, some X, none, some O, some X, none, some X, none] O X = (some 8, -1) := rfl

theorem mmv_2605 : minimaxL 3 [some O, none, some X, some O, some O, none, none, some X, some X] X O = (some 5, 1) := rfl

theorem mmv_2606 : minimaxL 3 [some O, none, some X, none, some O, some O, none, some X, some X] X O = (some 6, 1) := rfl

theorem mmv_2607 : minimaxL 3 [some O, none, some X, none, some O, none, some O, some X, some X] X O = (some 5, 1) := rfl

theorem mmv_2604 : minimaxL 4 [some O, none, some X, none, some O, none, none, some X, some X] O X = (some 1, 1) := by
  rw [minimaxL_succ 3 [some O, none, some X, none, some O, none, none, some X, some X] O X [1, 3, 5, 6] rfl rfl (List.cons_ne_nil _ _)]
  show pickBest [(1, (minimaxL 3 [some O, some O, some X, none, some O, none, none, some X, some X] X O).2), (3, (minimaxL 3 [some O, none, some X, some O, some O, none, none, some X, some X] X O).2), (5, (minimaxL 3 [some O, none, some X, none, some O, some O, none, some X, some X] X O).2), (6, (minimaxL 3 [some O, none, some X, none, some O, none, some O, some X, some X] X O).2)] O = (some 1, 1)
  rw [mmv_2591, mmv_2605, mmv_2606, mmv_2607]
  rfl

theorem mmv_2602 : minimaxL 5 [some O, none, some X, none, some O, none, none, some X, none] X O = (some 8, 1) := by
  rw [minimaxL_succ 4 [some O, none, some X, none, some O, none, none, some X, none] X O [1, 3, 5, 6, 8] rfl rfl (List.cons_ne_nil _ _)]
  show pickBest [(1, (minimaxL 4 [some O, some X, some X, none, some O, none, none, some X, none] O X).2), (3, (minimaxL 4 [some O, none, some X, some X, some O, none, none, some X, none] O X).2), (5, (minimaxL 4 [some O, none, some X, none, some O, some X, none, some X, none] O X).2), (6, (minimaxL 4 [some O, none, some X, none, some O, none, some X, some X, none] O X).2), (8, (minimaxL 4 [some O, none, some X, none, some O, none, none, some X, some X] O X).2)] X = (some 8, 1)
  rw [mmv_1252, mmv_2459, mmv_2603, mmv_2557, mmv_2604]
  rfl

theorem mmv_2610 : minimaxL 3 [some O, none, some X, some O, some X, some O, none, some X, none] X O = (some 6, 1) := rfl

theorem mmv_2611 : minimaxL 3 [some O, none, some X, none, some X, some O, some O, some X, none] X O = (some 1, 1) := rfl

theorem mmv_2612 : minimaxL 3 [some O, none, some X, none, some X, some O, none, some X, some O] X O = (some 6, 1) := rfl

theorem mmv_2609 : minimaxL 4 [some O, none, some X, none, some X, some O, none, some X, none] O X = (some 1, 1) := by
  rw [minimaxL_succ 3 [some O, none, some X, none, some X, some O, none, some X, none] O X [1, 3, 6, 8] rfl rfl (List.cons_ne_nil _ _)]
  show pickBest [(1, (minimaxL 3 [some O, some O, some X, none, some X, some O, none, some X, none] X O).2), (3, (minimaxL 3 [some O, none, some X, some O, some X, some O, none, some X, none] X O).2), (6, (minimaxL 3 [some O, none, some X, none, some X, some O, some O, some X, none] X O).2), (8, (minimaxL 3 [some O, none, some X, none, some X, some O, none, some X, some O] X O).2)] O = (some 1, 1)
  rw [mmv_2570, mmv_2610, mmv_2611, mmv_2612]
  rfl

theorem mmv_2614 : minimaxL 3 [some O, none, some X, none, some O, some O, some X, some X, none] X O = (some 8, 1) := rfl

theorem mmv_2615 : minimaxL 3 [some O, none, some X, none, none, some O, some X, some X, some O] X O = (some 4, 1) := rfl

theorem mmv_2613 : minimaxL 4 [some O, none, some X, none, none, some O, some X, some X, none] O X = (some 1, 1) := by
  rw [minimaxL_succ 3 [some O, none, some X, none, none, some O, some X, some X, none] O X [1, 3, 4, 8] rfl rfl (List.cons_ne_nil _ _)]
  show pickBest [(1, (minimaxL 3 [some O, some O, some X, none, none, some O, some X, some X, none] X O).2), (3, (minimaxL 3 [some O, none, some X, some O, none, some O, some X, some X, none] X O).2), (4, (minimaxL 3 [some O, none, some X, none, some O, some O, some X, some X, none] X O).2), (8, (minimaxL 3 [some O, none, some X, none, none, some O, some X, some X, some O] X O).2)] O = (some 1, 1)
  rw [mmv_2587, mmv_2599, mmv_2614, mmv_2615]
  rfl

theorem mmv_2617 : minimaxL 3 [some O, none, some X, some O, none, some O, none, some X, some X] X O = (some 6, 1) := rfl

theorem mmv_2619 : minimaxL 2 [some O, none, some X, none, some X, some O, some O, some X, some X] O X = (some 3, -1) := rfl

theorem mmv_2618 : minimaxL 3 [some O, none, some X, none, none, some O, some O, some X, some X] X O = (some 3, 0) := by
  rw [minimaxL_succ 2 [some O, none, some X, none, none, some O, some O, some X, some X] X O [1, 3, 4] rfl rfl (List.cons_ne_nil _ _)]
  show pickBest [(1, (minimaxL 2 [some O, some X, some X, none, none, some O, some O, some X, some X] O X).2), (3, (minimaxL 2 [some O, none, some X, some X, none, some O, some O, some X, some X] O X).2), (4, (minimaxL 2 [some O, none, some X, none, some X, some O, some O, some X, some X] O X).2)] X = (some 3, 0)
  rw [mmv_1313, mmv_2485, mmv_2619]
  rfl

theorem mmv_2616 : minimaxL 4 [some O, none, some X, none, none, some O, none, some X, some X] O X = (some 6, 0) := by
  rw [minimaxL_succ 3 [some O, none, some X, none, none, some O, none, some X, some X] O X [1, 3, 4, 6] rfl rfl (List.cons_ne_nil _ _)]
  show pickBest [(1, (minimaxL 3 [some O, some O, some X, none, none, some O, none, some X, some X] X O).2), (3, (minimaxL 3 [some O, none, some X, some O, none, some O, none, some X, some X] X O).2), (4, (minimaxL 3 [some O, none, some X, none, some O, some O, none, some X, some X] X O).2), (6, (minimaxL 3 [some O, none, some X, none, none, some O, some O, some X, some X] X O).2)] O = (some 6, 0)
  rw [mmv_2592, mmv_2617, mmv_2606, mmv_2618]
  rfl

theorem mmv_2608 : minimaxL 5 [some O, none, some X, none, none, some O, none, some X, none] X O = (some 6, 1) := by
  rw [minimaxL_succ 4 [some O, none, some X, none, none, some O, none, some X, none] X O [1, 3, 4, 6, 8] rfl rfl (List.cons_ne_nil _ _)]
  show pickBest [(1, (minimaxL 4 [some O, some X, some X, none, none, some O, none, some X, none] O X).2), (3, (minimaxL 4 [some O, none, some X, some X, none, some O, none, some X, none] O X).2), (4, (minimaxL 4 [some O, none, some X, none, some X, some O, none, some X, none] O X).2), (6, (minimaxL 4 [some O, none, some X, none, none, some O, some X, some X, none] O X).2), (8, (minimaxL 4 [some O, none, some X, none, none, some O, none, some X, some X] O X).2)] X = (some 6, 1)
  rw [mmv_1301, mmv_2482, mmv_2609, mmv_2613, mmv_2616]
  rfl

theorem mmv_2621 : minimaxL 4 [some O, none, some X, none, none, some X, some O, some X, none] O X = (some 3, -1) := rfl

theorem mmv_2622 : minimaxL 4 [some O, none, some X, none, none, none, some O, some X, some X] O X = (some 3, -1) := rfl

theorem mmv_2620 : minimaxL 5 [some O, none, some X, none, none, none, some O, some X, none] X O = (some 3, 0) := by
  rw [minimaxL_succ 4 [some O, none, some X, none, none, none, some O, some X, none] X O [1, 3, 4, 5, 8] rfl rfl (List.cons_ne_nil _ _)]
  show pickBest [(1, (minimaxL 4 [some O, some X, some X, none, none, none, some O, some X, none] O X).2), (3, (minimaxL 4 [some O, none, some X, some X, none, none, some O, some X, none] O X).2), (4, (minimaxL 4 [some O, none, some X, none, some X, none, some O, some X, none] O X).2), (5, (minimaxL 4 [some O, none, some X, none, none, some X, some O, some X, none] O X).2), (8, (minimaxL 4 [some O, none, some X, none, none, none, some O, some X, some X] O X).2)] X = (some 3, 0)
  rw [mmv_1338, mmv_2502, mmv_2534, mmv_2621, mmv_2622]
  rfl

theorem mmv_2625 : minimaxL 3 [some O, none, some X, some O, some X, none, none, some X, some O] X O = (some 6, 1) := rfl

theorem mmv_2626 : minimaxL 3 [some O, none, some X, none, some X, none, some O, some X, some O] X O = (some 1, 1) := rfl

theorem mmv_2624 : minimaxL 4 [some O, none, some X, none, some X, none, none, some X, some O] O X = (some 1, 1) := by
  rw [minimaxL_succ 3 [some O, none, some X, none, some X, none, none, some X, some O] O X [1, 3, 5, 6] rfl rfl (List.cons_ne_nil _ _)]
  show pickBest [(1, (minimaxL 3 [some O, some O, some X, none, some X, none, none, some X, some O] X O).2), (3, (minimaxL 3 [some O, none, some X, some O, some X, none, none, some X, some O] X O).2), (5, (minimaxL 3 [some O, none, some X, none, some X, some O, none, some X, some O] X O).2), (6, (minimaxL 3 [some O, none, some X, none, some X, none, some O, some X, some O] X O).2)] O = (some 1, 1)
  rw [mmv_2574, mmv_2625, mmv_2612, mmv_2626]
  rfl

theorem mmv_2627 : minimaxL 4 [some O, none, some X, none, none, none, some X, some X, some O] O X = (some 4, -1) := rfl

theorem mmv_2623 : minimaxL 5 [some O, none, some X, none, none, none, none, some X, some O] X O = (some 4, 1) := by
  rw [minimaxL_succ 4 [some O, none, some X, none, none, none, none, some X, some O] X O [1, 3, 4, 5, 6] rfl rfl (List.cons_ne_nil _ _)]
  show pickBest [(1, (minimaxL 4 [some O, some X, some X, none, none, none, none, some X, some O] O X).2), (3, (minimaxL 4 [some O, none, some X, some X, none, none, none, some X, some O] O X).2), (4, (minimaxL 4 [some O, none, some X, none, some X, none, none, some X, some O] O X).2), (5, (minimaxL 4 [some O, none, some X, none, none, some X, none, some X, some O] O X).2), (6, (minimaxL 4 [some O, none, some X, none, none, none, some X, some X, some O] O X).2)] X = (some 4, 1)
  rw [mmv_1379, mmv_2527, mmv_2624, mmv_2551, mmv_2627]
  rfl

theorem mmv_2566 : minimaxL 6 [some O, none, some X, none, none, none, none, some X, none] O X = (some 6, 0) := by
  rw [minimaxL_succ 5 [some O, none, some X, none, none, none, none, some X, none] O X [1, 3, 4, 5, 6, 8] rfl rfl (List.cons_ne_nil _ _)]
  show pickBest [(1, (minimaxL 5 [some O, some O, some X, none, none, none, none, some X, none] X O).2), (3, (minimaxL 5 [some O, none, some X, some O, none, none, none, some X, none] X O).2), (4, (minimaxL 5 [some O, none, some X, none, some O, none, none, some X, none] X O).2), (5, (minimaxL 5 [some O, none, some X, none, none, some O, none, some X, none] X O).2), (6, (minimaxL 5 [some O, none, some X, none, none, none, some O, some X, none] X O).2), (8, (minimaxL 5 [some O, none, some X, none, none, none, none, some X, some O] X O).2)] O = (some 6, 0)
  rw [mmv_2567, mmv_2594, mmv_2602, mmv_2608, mmv_2620, mmv_2623]
  rfl

theorem mmv_2629 : minimaxL 5 [some O, some O, some X, none, none, none, none, none, some X] X O = (some 5, 1) := rfl

theorem mmv_2630 : minimaxL 5 [some O, none, some X, some O, none, none, none, none, some X] X O = (some 5, 1) := rfl

theorem mmv_2631 : minimaxL 5 [some O, none, some X, none, some O, none, none, none, some X] X O = (some 5, 1) := rfl

theorem mmv_2634 : minimaxL 3 [some O, some O, some X, none, some X, some O, none, none, some X] X O = (some 6, 1) := rfl

theorem mmv_2635 : minimaxL 3 [some O, none, some X, some O, some X, some O, none, none, some X] X O = (some 6, 1) := rfl

theorem mmv_2636 : minimaxL 3 [some O, none, some X, none, some X, some O, some O, none, some X] X O = (some 3, 0) := by
  rw [minimaxL_succ 2 [some O, none, some X, none, some X, some O, some O, none, some X] X O [1, 3, 7] rfl rfl (List.cons_ne_nil _ _)]
  show pickBest [(1, (minimaxL 2 [some O, some X, some X, none, some X, some O, some O, none, some X] O X).2), (3, (minimaxL 2 [some O, none, some X, some X, some X, some O, some O, none, some X] O X).2), (7, (minimaxL 2 [some O, none, some X, none, some X, some O, some O, some X, some X] O X).2)] X = (some 3, 0)
  rw [mmv_1312, mmv_2473, mmv_2619]
  rfl

theorem mmv_2637 : minimaxL 3 [some O, none, some X, none, some X, some O, none, some O, some X] X O = (some 6, 1) := rfl

theorem mmv_2633 : minimaxL 4 [some O, none, some X, none, some X, some O, none, none, some X] O X = (some 6, 0) := by
  rw [minimaxL_succ 3 [some O, none, some X, none, some X, some O, none, none, some X] O X [1, 3, 6, 7] rfl rfl (List.cons_ne_nil _ _)]
  show pickBest [(1, (minimaxL 3 [some O, some O, some X, none, some X, some O, none, none, some X] X O).2), (3, (minimaxL 3 [some O, none, some X, some O, some X, some O, none, none, some X] X O).2), (6, (minimaxL 3 [some O, none, some X, none, some X, some O, some O, none, some X] X O).2), (7, (minimaxL 3 [some O, none, some X, none, some X, some O, none, some O, some X] X O).2)] O = (some 6, 0)
  rw [mmv_2634, mmv_2635, mmv_2636, mmv_2637]
  rfl

theorem mmv_2639 : minimaxL 3 [some O, some O, some X, none, none, some O, some X, none, some X] X O = (some 4, 1) := rfl

theorem mmv_2640 : minimaxL 3 [some O, none, some X, some O, none, some O, some X, none, some X] X O = (some 4, 1) := rfl

theorem mmv_2641 : minimaxL 3 [some O, none, some X, none, none, some O, some X, some O, some X] X O = (some 4, 1) := rfl

theorem mmv_2638 : minimaxL 4 [some O, none, some X, none, none, some O, some X, none, some X] O X = (some 1, 1) := by
  rw [minimaxL_succ 3 [some O, none, some X, none, none, some O, some X, none, some X] O X [1, 3, 4, 7] rfl rfl (List.cons_ne_nil _ _)]
  show pickBest [(1, (minimaxL 3 [some O, some O, some X, none, none, some O, some X, none, some X] X O).2), (3, (minimaxL 3 [some O, none, some X, some O, none, some O, some X, none, some X] X O).2), (4, (minimaxL 3 [some O, none, some X, none, some O, some O, some X, none, some X] X O).2), (7, (minimaxL 3 [some O, none, some X, none, none, some O, some X, some O, some X] X O).2)] O = (some 1, 1)
  rw [mmv_2639, mmv_2640, mmv_2561, mmv_2641]
  rfl

theorem mmv_2632 : minimaxL 5 [some O, none, some X, none, none, some O, none, none, some X] X O = (some 6, 1) := by
  rw [minimaxL_succ 4 [some O, none, some X, none, none, some O, none, none, some X] X O [1, 3, 4, 6, 7] rfl rfl (List.cons_ne_nil _ _)]
  show pickBest [(1, (minimaxL 4 [some O, some X, some X, none, none, some O, none, none, some X] O X).2), (3, (minimaxL 4 [some O, none, some X, some X, none, some O, none, none, some X] O X).2), (4, (minimaxL 4 [some O, none, some X, none, some X, some O, none, none, some X] O X).2), (6, (minimaxL 4 [some O, none, some X, none, none, some O, some X, none, some X] O X).2), (7, (minimaxL 4 [some O, none, some X, none, none, some O, none, some X, some X] O X).2)] X = (some 6, 1)
  rw [mmv_1306, mmv_2489, mmv_2633, mmv_2638, mmv_2616]
  rfl

theorem mmv_2642 : minimaxL 5 [some O, none, some X, none, none, none, some O, none, some X] X O = (some 5, 1) := rfl

theorem mmv_2643 : minimaxL 5 [some O, none, some X, none, none, none, none, some O, some X] X O = (some 5, 1) := rfl

theorem mmv_2628 : minimaxL 6 [some O, none, some X, none, none, none, none, none, some X] O X = (some 1, 1) := by
  rw [minimaxL_succ 5 [some O, none, some X, none, none, none, none, none, some X] O X [1, 3, 4, 5, 6, 7] rfl rfl (List.cons_ne_nil _ _)]
  show pickBest [(1, (minimaxL 5 [some O, some O, some X, none, none, none, none, none, some X] X O).2), (3, (minimaxL 5 [some O, none, some X, some O, none, none, none, none, some X] X O).2), (4, (minimaxL 5 [some O, none, some X, none, some O, none, none, none, some X] X O).2), (5, (minimaxL 5 [some O, none, some X, none, none, some O, none, none, some X] X O).2), (6, (minimaxL 5 [some O, none, some X, none, none, none, some O, none, some X] X O).2), (7, (minimaxL 5 [some O, none, some X, none, none, none, none, some O, some X] X O).2)] O = (some 1, 1)
  rw [mmv_2629, mmv_2630, mmv_2631, mmv_2632, mmv_2642, mmv_2643]
  rfl

theorem mmv_2397 : minimaxL 7 [some O, none, some X, none, none, none, none, none, none] X O = (some 8, 1) := by
  rw [minimaxL_succ 6 [some O, none, some X, none, none, none, none, none, none] X O [1, 3, 4, 5, 6, 7, 8] rfl rfl (List.cons_ne_nil _ _)]
  show pickBest [(1, (minimaxL 6 [some O, some X, some X, none, none, none, none, none, none] O X).2), (3, (minimaxL 6 [some O, none, some X, some X, none, none, none, none, none] O X).2), (4, (minimaxL 6 [some O, none, some X, none, some X, none, none, none, none] O X).2), (5, (minimaxL 6 [some O, none, some X, none, none, some X, none, none, none] O X).2), (6, (minimaxL 6 [some O, none, some X, none, none, none, some X, none, none] O X).2), (7, (minimaxL 6 [some O, none, some X, none, none, none, none, some X, none] O X).2), (8, (minimaxL 6 [some O, none, some X, none, none, none, none, none, some X] O X).2)] X = (some 8, 1)
  rw [mmv_1234, mmv_2398, mmv_2528, mmv_2538, mmv_2552, mmv_2566, mmv_2628]
  rfl

theorem mmv_2647 : minimaxL 4 [none, some O, some X, some X, some O, some X, none, none, none] O X = (some 7, -1) := rfl

theorem mmv_2648 : minimaxL 4 [none, some O, some X, some X, some O, none, some X, none, none] O X = (some 7, -1) := rfl

theorem mmv_2652 : minimaxL 1 [none, some O, some X, some X, some O, some O, some X, some X, some O] X O = (some 0, 1) := rfl

theorem mmv_2651 : minimaxL 2 [none, some O, some X, some X, some O, some O, some X, some X, none] O X = (some 0, 1) := by
  rw [minimaxL_succ 1 [none, some O, some X, some X, some O, some O, some X, some X, none] O X [0, 8] rfl rfl (List.cons_ne_nil _ _)]
  show pickBest [(0, (minimaxL 1 [some O, some O, some X, some X, some O, some O, some X, some X, none] X O).2), (8, (minimaxL 1 [none, some O, some X, some X, some O, some O, some X, some X, some O] X O).2)] O = (some 0, 1)
  rw [mmv_2430, mmv_2652]
  rfl

theorem mmv_2654 : minimaxL 1 [none, some O, some X, some X, some O, some O, some O, some X, some X] X O = (some 0, 0) := by
  rw [minimaxL_succ 0 [none, some O, some X, some X, some O, some O, some O, some X, some X] X O [0] rfl rfl (List.cons_ne_nil _ _)]
  show pickBest [(0, (minimaxL 0 [some X, some O, some X, some X, some O, some O, some O, some X, some X] O X).2)] X = (some 0, 0)
  rw [mmv_0071]
  rfl

theorem mmv_2653 : minimaxL 2 [none, some O, some X, some X, some O, some O, none, some X, some X] O X = (some 6, 0) := by
  rw [minimaxL_succ 1 [none, some O, some X, some X, some O, some O, none, some X, some X] O X [0, 6] rfl rfl (List.cons_ne_nil _ _)]
  show pickBest [(0, (minimaxL 1 [some O, some O, some X, some X, some O, some O, none, some X, some X] X O).2), (6, (minimaxL 1 [none, some O, some X, some X, some O, some O, some O, some X, some X] X O).2)] O = (some 6, 0)
  rw [mmv_2422, mmv_2654]
  rfl

theorem mmv_2650 : minimaxL 3 [none, some O, some X, some X, some O, some O, none, some X, none] X O = (some 6, 1) := by
  rw [minimaxL_succ 2 [none, some O, some X, some X, some O, some O, none, some X, none] X O [0, 6, 8] rfl rfl (List.cons_ne_nil _ _)]
  show pickBest [(0, (minimaxL 2 [some X, some O, some X, some X, some O, some O, none, some X, none] O X).2), (6, (minimaxL 2 [none, some O, some X, some X, some O, some O, some X, some X, none] O X).2), (8, (minimaxL 2 [none, some O, some X, some X, some O, some O, none, some X, some X] O X).2)] X = (some 6, 1)
  rw [mmv_0069, mmv_2651, mmv_2653]
  rfl

theorem mmv_2657 : minimaxL 1 [none, some O, some X, some X, some O, some X, some O, some X, some O] X O = (some 0, 0) := by
  rw [minimaxL_succ 0 [none, some O, some X, some X, some O, some X, some O, some X, some O] X O [0] rfl rfl (List.cons_ne_nil _ _)]
  show pickBest [(0, (minimaxL 0 [some X, some O, some X, some X, some O, some X, some O, some X, some O] O X).2)] X = (some 0, 0)
  rw [mmv_0078]
  rfl

theorem mmv_2656 : minimaxL 2 [none, some O, some X, some X, some O, some X, some O, some X, none] O X = (some 8, 0) := by
  rw [minimaxL_succ 1 [none, some O, some X, some X, some O, some X, some O, some X, none] O X [0, 8] rfl rfl (List.cons_ne_nil _ _)]
  show pickBest [(0, (minimaxL 1 [some O, some O, some X, some X, some O, some X, some O, some X, none] X O).2), (8, (minimaxL 1 [none, some O, some X, some X, some O, some X, some O, some X, some O] X O).2)] O = (some 8, 0)
  rw [mmv_2438, mmv_2657]
  rfl

theorem mmv_2658 : minimaxL 2 [none, some O, some X, some X, some O, none, some O, some X, some X] O X = (some 5, 0) := by
  rw [minimaxL_succ 1 [none, some O, some X, some X, some O, none, some O, some X, some X] O X [0, 5] rfl rfl (List.cons_ne_nil _ _)]
  show pickBest [(0, (minimaxL 1 [some O, some O, some X, some X, some O, none, some O, some X, some X] X O).2), (5, (minimaxL 1 [none, some O, some X, some X, some O, some O, some O, some X, some X] X O).2)] O = (some 5, 0)
  rw [mmv_2423, mmv_2654]
  rfl

theorem mmv_2655 : minimaxL 3 [none, some O, some X, some X, some O, none, some O, some X, none] X O = (some 8, 0) := by
  rw [minimaxL_succ 2 [none, some O, some X, some X, some O, none, some O, some X, none] X O [0, 5, 8] rfl rfl (List.cons_ne_nil _ _)]
  show pickBest [(0, (minimaxL 2 [some X, some O, some X, some X, some O, none, some O, some X, none] O X).2), (5, (minimaxL 2 [none, some O, some X, some X, some O, some X, some O, some X, none] O X).2), (8, (minimaxL 2 [none, some O, some X, some X, some O, none, some O, some X, some X] O X).2)] X = (some 8, 0)
  rw [mmv_0076, mmv_2656, mmv_2658]
  rfl

theorem mmv_2660 : minimaxL 2 [none, some O, some X, some X, some O, some X, none, some X, some O] O X = (some 0, -1) := rfl

theorem mmv_2661 : minimaxL 2 [none, some O, some X, some X, some O, none, some X, some X, some O] O X = (some 0, -1) := rfl

theorem mmv_2659 : minimaxL 3 [none, some O, some X, some X, some O, none, none, some X, some O] X O = (some 0, 0) := by
  rw [minimaxL_succ 2 [none, some O, some X, some X, some O, none, none, some X, some O] X O [0, 5, 6] rfl rfl (List.cons_ne_nil _ _)]
  show pickBest [(0, (minimaxL 2 [some X, some O, some X, some X, some O, none, none, some X, some O] O X).2), (5, (minimaxL 2 [none, some O, some X, some X, some O, some X, none, some X, some O] O X).2), (6, (minimaxL 2 [none, some O, some X, some X, some O, none, some X, some X, some O] O X).2)] X = (some 0, 0)
  rw [mmv_0084, mmv_2660, mmv_2661]
  rfl

theorem mmv_2649 : minimaxL 4 [none, some O, some X, some X, some O, none, none, some X, none] O X = (some 6, 0) := by
  rw [minimaxL_succ 3 [none, some O, some X, some X, some O, none, none, some X, none] O X [0, 5, 6, 8] rfl rfl (List.cons_ne_nil _ _)]
  show pickBest [(0, (minimaxL 3 [some O, some O, some X, some X, some O, none, none, some X, none] X O).2), (5, (minimaxL 3 [none, some O, some X, some X, some O, some O, none, some X, none] X O).2), (6, (minimaxL 3 [none, some O, some X, some X, some O, none, some O, some X, none] X O).2), (8, (minimaxL 3 [none, some O, some X, some X, some O, none, none, some X, some O] X O).2)] O = (some 6, 0)
  rw [mmv_2419, mmv_2650, mmv_2655, mmv_2659]
  rfl

theorem mmv_2662 : minimaxL 4 [none, some O, some X, some X, some O, none, none, none, some X] O X = (some 7, -1) := rfl

theorem mmv_2646 : minimaxL 5 [none, some O, some X, some X, some O, none, none, none, none] X O = (some 7, 0) := by
  rw [minimaxL_succ 4 [none, some O, some X, some X, some O, none, none, none, none] X O [0, 5, 6, 7, 8] rfl rfl (List.cons_ne_nil _ _)]
  show pickBest [(0, (minimaxL 4 [some X, some O, some X, some X, some O, none, none, none, none] O X).2), (5, (minimaxL 4 [none, some O, some X, some X, some O, some X, none, none, none] O X).2), (6, (minimaxL 4 [none, some O, some X, some X, some O, none, some X, none, none] O X).2), (7, (minimaxL 4 [none, some O, some X, some X, some O, none, none, some X, none] O X).2), (8, (minimaxL 4 [none, some O, some X, some X, some O, none, none, none, some X] O X).2)] X = (some 7, 0)
  rw [mmv_0064, mmv_2647, mmv_2648, mmv_2649, mmv_2662]
  rfl

theorem mmv_2667 : minimaxL 1 [none, some O, some X, some X, some X, some O, some O, some X, some O] X O = (some 0, 0) := by
  rw [minimaxL_succ 0 [none, some O, some X, some X, some X, some O, some O, some X, some O] X O [0] rfl rfl (List.cons_ne_nil _ _)]
  show pickBest [(0, (minimaxL 0 [some X, some O, some X, some X, some X, some O, some O, some X, some O] O X).2)] X = (some 0, 0)
  rw [mmv_0096]
  rfl

theorem mmv_2666 : minimaxL 2 [none, some O, some X, some X, some X, some O, some O, some X, none] O X = (some 0, 0) := by
  rw [minimaxL_succ 1 [none, some O, some X, some X, some X, some O, some O, some X, none] O X [0, 8] rfl rfl (List.cons_ne_nil _ _)]
  show pickBest [(0, (minimaxL 1 [some O, some O, some X, some X, some X, some O, some O, some X, none] X O).2), (8, (minimaxL 1 [none, some O, some X, some X, some X, some O, some O, some X, some O] X O).2)] O = (some 0, 0)
  rw [mmv_2426, mmv_2667]
  rfl

theorem mmv_2669 : minimaxL 1 [none, some O, some X, some X, some X, some O, some O, some O, some X] X O = (some 0, 1) := rfl

theorem mmv_2668 : minimaxL 2 [none, some O, some X, some X, some X, some O, some O, none, some X] O X = (some 0, 0) := by
  rw [minimaxL_succ 1 [none, some O, some X, some X, some X, some O, some O, none, some X] O X [0, 7] rfl rfl (List.cons_ne_nil _ _)]
  show pickBest [(0, (minimaxL 1 [some O, some O, some X, some X, some X, some O, some O, none, some X] X O).2), (7, (minimaxL 1 [none, some O, some X, some X, some X, some O, some O, some O, some X] X O).2)] O = (some 0, 0)
  rw [mmv_2449, mmv_2669]
  rfl

theorem mmv_2665 : minimaxL 3 [none, some O, some X, some X, some X, some O, some O, none, none] X O = (some 8, 0) := by
  rw [minimaxL_succ 2 [none, some O, some X, some X, some X, some O, some O, none, none] X O [0, 7, 8] rfl rfl (List.cons_ne_nil _ _)]
  show pickBest [(0, (minimaxL 2 [some X, some O, some X, some X, some X, some O, some O, none, none] O X).2), (7, (minimaxL 2 [none, some O, some X, some X, some X, some O, some O, some X, none] O X).2), (8, (minimaxL 2 [none, some O, some X, some X, some X, some O, some O, none, some X] O X).2)] X = (some 8, 0)
  rw [mmv_0093, mmv_2666, mmv_2668]
  rfl

theorem mmv_2670 : minimaxL 3 [none, some O, some X, some X, some X, some O, none, some O, none] X O = (some 6, 1) := rfl

theorem mmv_2671 : minimaxL 3 [none, some O, some X, some X, some X, some O, none, none, some O] X O = (some 6, 1) := rfl

theorem mmv_2664 : minimaxL 4 [none, some O, some X, some X, some X, some O, none, none, none] O X = (some 6, 0) := by
  rw [minimaxL_succ 3 [none, some O, some X, some X, some X, some O, none, none, none] O X [0, 6, 7, 8] rfl rfl (List.cons_ne_nil _ _)]
  show pickBest [(0, (minimaxL 3 [some O, some O, some X, some X, some X, some O, none, none, none] X O).2), (6, (minimaxL 3 [none, some O, some X, some X, some X, some O, some O, none, none] X O).2), (7, (minimaxL 3 [none, some O, some X, some X, some X, some O, none, some O, none] X O).2), (8, (minimaxL 3 [none, some O, some X, some X, some X, some O, none, none, some O] X O).2)] O = (some 6, 0)
  rw [mmv_2401, mmv_2665, mmv_2670, mmv_2671]
  rfl

theorem mmv_2673 : minimaxL 3 [none, some O, some X, some X, some O, some O, some X, none, none] X O = (some 0, 1) := rfl

theorem mmv_2674 : minimaxL 3 [none, some O, some X, some X, none, some O, some X, some O, none] X O = (some 4, 1) := rfl

theorem mmv_2675 : minimaxL 3 [none, some O, some X, some X, none, some O, some X, none, some O] X O = (some 4, 1) := rfl

theorem mmv_2672 : minimaxL 4 [none, some O, some X, some X, none, some O, some X, none, none] O X = (some 0, 1) := by
  rw [minimaxL_succ 3 [none, some O, some X, some X, none, some O, some X, none, none] O X [0, 4, 7, 8] rfl rfl (List.cons_ne_nil _ _)]
  show pickBest [(0, (minimaxL 3 [some O, some O, some X, some X, none, some O, some X, none, none] X O).2), (4, (minimaxL 3 [none, some O, some X, some X, some O, some O, some X, none, none] X O).2), (7, (minimaxL 3 [none, some O, some X, some X, none, some O, some X, some O, none] X O).2), (8, (minimaxL 3 [none, some O, some X, some X, none, some O, some X, none, some O] X O).2)] O = (some 0, 1)
  rw [mmv_2415, mmv_2673, mmv_2674, mmv_2675]
  rfl

theorem mmv_2678 : minimaxL 2 [none, some O, some X, some X, none, some O, some O, some X, some X] O X = (some 0, 0) := by
  rw [minimaxL_succ 1 [none, some O, some X, some X, none, some O, some O, some X, some X] O X [0, 4] rfl rfl (List.cons_ne_nil _ _)]
  show pickBest [(0, (minimaxL 1 [some O, some O, some X, some X, none, some O, some O, some X, some X] X O).2), (4, (minimaxL 1 [none, some O, some X, some X, some O, some O, some O, some X, some X] X O).2)] O = (some 0, 0)
  rw [mmv_2433, mmv_2654]
  rfl

theorem mmv_2677 : minimaxL 3 [none, some O, some X, some X, none, some O, some O, some X, none] X O = (some 8, 0) := by
  rw [minimaxL_succ 2 [none, some O, some X, some X, none, some O, some O, some X, none] X O [0, 4, 8] rfl rfl (List.cons_ne_nil _ _)]
  show pickBest [(0, (minimaxL 2 [some X, some O, some X, some X, none, some O, some O, some X, none] O X).2), (4, (minimaxL 2 [none, some O, some X, some X, some X, some O, some O, some X, none] O X).2), (8, (minimaxL 2 [none, some O, some X, some X, none, some O, some O, some X, some X] O X).2)] X = (some 8, 0)
  rw [mmv_0097, mmv_2666, mmv_2678]
  rfl

theorem mmv_2680 : minimaxL 2 [none, some O, some X, some X, some X, some O, none, some X, some O] O X = (some 6, 0) := by
  rw [minimaxL_succ 1 [none, some O, some X, some X, some X, some O, none, some X, some O] O X [0, 6] rfl rfl (List.cons_ne_nil _ _)]
  show pickBest [(0, (minimaxL 1 [some O, some O, some X, some X, some X, some O, none, some X, some O] X O).2), (6, (minimaxL 1 [none, some O, some X, some X, some X, some O, some O, some X, some O] X O).2)] O = (some 6, 0)
  rw [mmv_2428, mmv_2667]
  rfl

theorem mmv_2681 : minimaxL 2 [none, some O, some X, some X, none, some O, some X, some X, some O] O X = (some 0, 1) := by
  rw [minimaxL_succ 1 [none, some O, some X, some X, none, some O, some X, some X, some O] O X [0, 4] rfl rfl (List.cons_ne_nil _ _)]
  show pickBest [(0, (minimaxL 1 [some O, some O, some X, some X, none, some O, some X, some X, some O] X O).2), (4, (minimaxL 1 [none, some O, some X, some X, some O, some O, some X, some X, some O] X O).2)] O = (some 0, 1)
  rw [mmv_2431, mmv_2652]
  rfl

theorem mmv_2679 : minimaxL 3 [none, some O, some X, some X, none, some O, none, some X, some O] X O = (some 6, 1) := by
  rw [minimaxL_succ 2 [none, some O, some X, some X, none, some O, none, some X, some O] X O [0, 4, 6] rfl rfl (List.cons_ne_nil _ _)]
  show pickBest [(0, (minimaxL 2 [some X, some O, some X, some X, none, some O, none, some X, some O] O X).2), (4, (minimaxL 2 [none, some O, some X, some X, some X, some O, none, some X, some O] O X).2), (6, (minimaxL 2 [none, some O, some X, some X, none, some O, some X, some X, some O] O X).2)] X = (some 6, 1)
  rw [mmv_0118, mmv_2680, mmv_2681]
  rfl

theorem mmv_2676 : minimaxL 4 [none, some O, some X, some X, none, some O, none, some X, none] O X = (some 6, 0) := by
  rw [minimaxL_succ 3 [none, some O, some X, some X, none, some O, none, some X, none] O X [0, 4, 6, 8] rfl rfl (List.cons_ne_nil _ _)]
  show pickBest [(0, (minimaxL 3 [some O, some O, some X, some X, none, some O, none, some X, none] X O).2), (4, (minimaxL 3 [none, some O, some X, some X, some O, some O, none, some X, none] X O).2), (6, (minimaxL 3 [none, some O, some X, some X, none, some O, some O, some X, none] X O).2), (8, (minimaxL 3 [none, some O, some X, some X, none, some O, none, some X, some O] X O).2)] O = (some 6, 0)
  rw [mmv_2424, mmv_2650, mmv_2677, mmv_2679]
  rfl

theorem mmv_2684 : minimaxL 2 [none, some O, some X, some X, some O, some O, some X, none, some X] O X = (some 7, -1) := rfl

theorem mmv_2683 : minimaxL 3 [none, some O, some X, some X, some O, some O, none, none, some X] X O = (some 7, 0) := by
  rw [minimaxL_succ 2 [none, some O, some X, some X, some O, some O, none, none, some X] X O [0, 6, 7] rfl rfl (List.cons_ne_nil _ _)]
  show pickBest [(0, (minimaxL 2 [some X, some O, some X, some X, some O, some O, none, none, some X] O X).2), (6, (minimaxL 2 [none, some O, some X, some X, some O, some O, some X, none, some X] O X).2), (7, (minimaxL 2 [none, some O, some X, some X, some O, some O, none, some X, some X] O X).2)] X = (some 7, 0)
  rw [mmv_0123, mmv_2684, mmv_2653]
  rfl

theorem mmv_2685 : minimaxL 3 [none, some O, some X, some X, none, some O, some O, none, some X] X O = (some 7, 0) := by
  rw [minimaxL_succ 2 [none, some O, some X, some X, none, some O, some O, none, some X] X O [0, 4, 7] rfl rfl (List.cons_ne_nil _ _)]
  show pickBest [(0, (minimaxL 2 [some X, some O, some X, some X, none, some O, some O, none, some X] O X).2), (4, (minimaxL 2 [none, some O, some X, some X, some X, some O, some O, none, some X] O X).2), (7, (minimaxL 2 [none, some O, some X, some X, none, some O, some O, some X, some X] O X).2)] X = (some 7, 0)
  rw [mmv_0099, mmv_2668, mmv_2678]
  rfl

theorem mmv_2687 : minimaxL 2 [some X, some O, some X, some X, none, some O, none, some O, some X] O X = (some 4, -1) := rfl

theorem mmv_2688 : minimaxL 2 [none, some O, some X, some X, some X, some O, none, some O, some X] O X = (some 0, 1) := by
  rw [minimaxL_succ 1 [none, some O, some X, some X, some X, some O, none, some O, some X] O X [0, 6] rfl rfl (List.cons_ne_nil _ _)]
  show pickBest [(0, (minimaxL 1 [some O, some O, some X, some X, some X, some O, none, some O, some X] X O).2), (6, (minimaxL 1 [none, some O, some X, some X, some X, some O, some O, some O, some X] X O).2)] O = (some 0, 1)
  rw [mmv_2450, mmv_2669]
  rfl

theorem mmv_2689 : minimaxL 2 [none, some O, some X, some X, none, some O, some X, some O, some X] O X = (some 4, -1) := rfl

theorem mmv_2686 : minimaxL 3 [none, some O, some X, some X, none, some O, none, some O, some X] X O = (some 4, 1) := by
  rw [minimaxL_succ 2 [none, some O, some X, some X, none, some O, none, some O, some X] X O [0, 4, 6] rfl rfl (List.cons_ne_nil _ _)]
  show pickBest [(0, (minimaxL 2 [some X, some O, some X, some X, none, some O, none, some O, some X] O X).2), (4, (minimaxL 2 [none, some O, some X, some X, some X, some O, none, some O, some X] O X).2), (6, (minimaxL 2 [none, some O, some X, some X, none, some O, some X, some O, some X] O X).2)] X = (some 4, 1)
  rw [mmv_2687, mmv_2688, mmv_2689]
  rfl

theorem mmv_2682 : minimaxL 4 [none, some O, some X, some X, none, some O, none, none, some X] O X = (some 4, 0) := by
  rw [minimaxL_succ 3 [none, some O, some X, some X, none, some O, none, none, some X] O X [0, 4, 6, 7] rfl rfl (List.cons_ne_nil _ _)]
  show pickBest [(0, (minimaxL 3 [some O, some O, some X, some X, none, some O, none, none, some X] X O).2), (4, (minimaxL 3 [none, some O, some X, some X, some O, some O, none, none, some X] X O).2), (6, (minimaxL 3 [none, some O, some X, some X, none, some O, some O, none, some X] X O).2), (7, (minimaxL 3 [none, some O, some X, some X, none, some O, none, some O, some X] X O).2)] O = (some 4, 0)
  rw [mmv_2447, mmv_2683, mmv_2685, mmv_2686]
  rfl

theorem mmv_2663 : minimaxL 5 [none, some O, some X, some X, none, some O, none, none, none] X O = (some 6, 1) := by
  rw [minimaxL_succ 4 [none, some O, some X, some X, none, some O, none, none, none] X O [0, 4, 6, 7, 8] rfl rfl (List.cons_ne_nil _ _)]
  show pickBest [(0, (minimaxL 4 [some X, some O, some X, some X, none, some O, none, none, none] O X).2), (4, (minimaxL 4 [none, some O, some X, some X, some X, some O, none, none, none] O X).2), (6, (minimaxL 4 [none, some O, some X, some X, none, some O, some X, none, none] O X).2), (7, (minimaxL 4 [none, some O, some X, some X, none, some O, none, some X, none] O X).2), (8, (minimaxL 4 [none, some O, some X, some X, none, some O, none, none, some X] O X).2)] X = (some 6, 1)
  rw [mmv_0090, mmv_2664, mmv_2672, mmv_2676, mmv_2682]
  rfl

theorem mmv_2692 : minimaxL 3 [none, some O, some X, some X, some X, none, some O, some O, none] X O = (some 5, 1) := rfl

theorem mmv_2693 : minimaxL 3 [none, some O, some X, some X, some X, none, some O, none, some O] X O = (some 5, 1) := rfl

theorem mmv_2691 : minimaxL 4 [none, some O, some X, some X, some X, none, some O, none, none] O X = (some 5, 0) := by
  rw [minimaxL_succ 3 [none, some O, some X, some X, some X, none, some O, none, none] O X [0, 5, 7, 8] rfl rfl (List.cons_ne_nil _ _)]
  show pickBest [(0, (minimaxL 3 [some O, some O, some X, some X, some X, none, some O, none, none] X O).2), (5, (minimaxL 3 [none, some O, some X, some X, some X, some O, some O, none, none] X O).2), (7, (minimaxL 3 [none, some O, some X, some X, some X, none, some O, some O, none] X O).2), (8, (minimaxL 3 [none, some O, some X, some X, some X, none, some O, none, some O] X O).2)] O = (some 5, 0)
  rw [mmv_2402, mmv_2665, mmv_2692, mmv_2693]
  rfl

theorem mmv_2695 : minimaxL 3 [none, some O, some X, some X, some O, some X, some O, none, none] X O = (some 8, 1) := rfl

theorem mmv_2696 : minimaxL 3 [none, some O, some X, some X, none, some X, some O, some O, none] X O = (some 8, 1) := rfl

theorem mmv_2697 : minimaxL 3 [none, some O, some X, some X, none, some X, some O, none, some O] X O = (some 4, 1) := rfl

theorem mmv_2694 : minimaxL 4 [none, some O, some X, some X, none, some X, some O, none, none] O X = (some 0, 1) := by
  rw [minimaxL_succ 3 [none, some O, some X, some X, none, some X, some O, none, none] O X [0, 4, 7, 8] rfl rfl (List.cons_ne_nil _ _)]
  show pickBest [(0, (minimaxL 3 [some O, some O, some X, some X, none, some X, some O, none, none] X O).2), (4, (minimaxL 3 [none, some O, some X, some X, some O, some X, some O, none, none] X O).2), (7, (minimaxL 3 [none, some O, some X, some X, none, some X, some O, some O, none] X O).2), (8, (minimaxL 3 [none, some O, some X, some X, none, some X, some O, none, some O] X O).2)] O = (some 0, 1)
  rw [mmv_2407, mmv_2695, mmv_2696, mmv_2697]
  rfl

theorem mmv_2700 : minimaxL 2 [none, some O, some X, some X, some X, none, some O, some X, some O] O X = (some 5, 0) := by
  rw [minimaxL_succ 1 [none, some O, some X, some X, some X, none, some O, some X, some O] O X [0, 5] rfl rfl (List.cons_ne_nil _ _)]
  show pickBest [(0, (minimaxL 1 [some O, some O, some X, some X, some X, none, some O, some X, some O] X O).2), (5, (minimaxL 1 [none, some O, some X, some X, some X, some O, some O, some X, some O] X O).2)] O = (some 5, 0)
  rw [mmv_2436, mmv_2667]
  rfl

theorem mmv_2701 : minimaxL 2 [none, some O, some X, some X, none, some X, some O, some X, some O] O X = (some 4, 0) := by
  rw [minimaxL_succ 1 [none, some O, some X, some X, none, some X, some O, some X, some O] O X [0, 4] rfl rfl (List.cons_ne_nil _ _)]
  show pickBest [(0, (minimaxL 1 [some O, some O, some X, some X, none, some X, some O, some X, some O] X O).2), (4, (minimaxL 1 [none, some O, some X, some X, some O, some X, some O, some X, some O] X O).2)] O = (some 4, 0)
  rw [mmv_2439, mmv_2657]
  rfl

theorem mmv_2699 : minimaxL 3 [none, some O, some X, some X, none, none, some O, some X, some O] X O = (some 5, 0) := by
  rw [minimaxL_succ 2 [none, some O, some X, some X, none, none, some O, some X, some O] X O [0, 4, 5] rfl rfl (List.cons_ne_nil _ _)]
  show pickBest [(0, (minimaxL 2 [some X, some O, some X, some X, none, none, some O, some X, some O] O X).2), (4, (minimaxL 2 [none, some O, some X, some X, some X, none, some O, some X, some O] O X).2), (5, (minimaxL 2 [none, some O, some X, some X, none, some X, some O, some X, some O] O X).2)] X = (some 5, 0)
  rw [mmv_0139, mmv_2700, mmv_2701]
  rfl

theorem mmv_2698 : minimaxL 4 [none, some O, some X, some X, none, none, some O, some X, none] O X = (some 4, 0) := by
  rw [minimaxL_succ 3 [none, some O, some X, some X, none, none, some O, some X, none] O X [0, 4, 5, 8] rfl rfl (List.cons_ne_nil _ _)]
  show pickBest [(0, (minimaxL 3 [some O, some O, some X, some X, none, none, some O, some X, none] X O).2), (4, (minimaxL 3 [none, some O, some X, some X, some O, none, some O, some X, none] X O).2), (5, (minimaxL 3 [none, some O, some X, some X, none, some O, some O, some X, none] X O).2), (8, (minimaxL 3 [none, some O, some X, some X, none, none, some O, some X, some O] X O).2)] O = (some 4, 0)
  rw [mmv_2434, mmv_2655, mmv_2677, mmv_2699]
  rfl

theorem mmv_2703 : minimaxL 3 [none, some O, some X, some X, some O, none, some O, none, some X] X O = (some 5, 1) := rfl

theorem mmv_2704 : minimaxL 3 [none, some O, some X, some X, none, none, some O, some O, some X] X O = (some 5, 1) := rfl

theorem mmv_2702 : minimaxL 4 [none, some O, some X, some X, none, none, some O, none, some X] O X = (some 5, 0) := by
  rw [minimaxL_succ 3 [none, some O, some X, some X, none, none, some O, none, some X] O X [0, 4, 5, 7] rfl rfl (List.cons_ne_nil _ _)]
  show pickBest [(0, (minimaxL 3 [some O, some O, some X, some X, none, none, some O, none, some X] X O).2), (4, (minimaxL 3 [none, some O, some X, some X, some O, none, some O, none, some X] X O).2), (5, (minimaxL 3 [none, some O, some X, some X, none, some O, some O, none, some X] X O).2), (7, (minimaxL 3 [none, some O, some X, some X, none, none, some O, some O, some X] X O).2)] O = (some 5, 0)
  rw [mmv_2454, mmv_2703, mmv_2685, mmv_2704]
  rfl

theorem mmv_2690 : minimaxL 5 [none, some O, some X, some X, none, none, some O, none, none] X O = (some 5, 1) := by
  rw [minimaxL_succ 4 [none, some O, some X, some X, none, none, some O, none, none] X O [0, 4, 5, 7, 8] rfl rfl (List.cons_ne_nil _ _)]
  show pickBest [(0, (minimaxL 4 [some X, some O, some X, some X, none, none, some O, none, none] O X).2), (4, (minimaxL 4 [none, some O, some X, some X, some X, none, some O, none, none] O X).2), (5, (minimaxL 4 [none, some O, some X, some X, none, some X, some O, none, none] O X).2), (7, (minimaxL 4 [none, some O, some X, some X, none, none, some O, some X, none] O X).2), (8, (minimaxL 4 [none, some O, some X, some X, none, none, some O, none, some X] O X).2)] X = (some 5, 1)
  rw [mmv_0128, mmv_2691, mmv_2694, mmv_2698, mmv_2702]
  rfl

theorem mmv_2707 : minimaxL 3 [none, some O, some X, some X, some X, none, none, some O, some O] X O = (some 6, 1) := rfl

theorem mmv_2706 : minimaxL 4 [none, some O, some X, some X, some X, none, none, some O, none] O X = (some 0, 1) := by
  rw [minimaxL_succ 3 [none, some O, some X, some X, some X, none, none, some O, none] O X [0, 5, 6, 8] rfl rfl (List.cons_ne_nil _ _)]
  show pickBest [(0, (minimaxL 3 [some O, some O, some X, some X, some X, none, none, some O, none] X O).2), (5, (minimaxL 3 [none, some O, some X, some X, some X, some O, none, some O, none] X O).2), (6, (minimaxL 3 [none, some O, some X, some X, some X, none, some O, some O, none] X O).2), (8, (minimaxL 3 [none, some O, some X, some X, some X, none, none, some O, some O] X O).2)] O = (some 0, 1)
  rw [mmv_2403, mmv_2670, mmv_2692, mmv_2707]
  rfl

theorem mmv_2708 : minimaxL 4 [none, some O, some X, some X, none, some X, none, some O, none] O X = (some 4, -1) := rfl

theorem mmv_2709 : minimaxL 4 [none, some O, some X, some X, none, none, some X, some O, none] O X = (some 4, -1) := rfl

theorem mmv_2710 : minimaxL 4 [none, some O, some X, some X, none, none, none, some O, some X] O X = (some 4, -1) := rfl

theorem mmv_2705 : minimaxL 5 [none, some O, some X, some X, none, none, none, some O, none] X O = (some 4, 1) := by
  rw [minimaxL_succ 4 [none, some O, some X, some X, none, none, none, some O, none] X O [0, 4, 5, 6, 8] rfl rfl (List.cons_ne_nil _ _)]
  show pickBest [(0, (minimaxL 4 [some X, some O, some X, some X, none, none, none, some O, none] O X).2), (4, (minimaxL 4 [none, some O, some X, some X, some X, none, none, some O, none] O X).2), (5, (minimaxL 4 [none, some O, some X, some X, none, some X, none, some O, none] O X).2), (6, (minimaxL 4 [none, some O, some X, some X, none, none, some X, some O, none] O X).2), (8, (minimaxL 4 [none, some O, some X, some X, none, none, none, some O, some X] O X).2)] X = (some 4, 1)
  rw [mmv_0156, mmv_2706, mmv_2708, mmv_2709, mmv_2710]
  rfl

theorem mmv_2712 : minimaxL 4 [none, some O, some X, some X, some X, none, none, none, some O] O X = (some 0, 1) := by
  rw [minimaxL_succ 3 [none, some O, some X, some X, some X, none, none, none, some O] O X [0, 5, 6, 7] rfl rfl (List.cons_ne_nil _ _)]
  show pickBest [(0, (minimaxL 3 [some O, some O, some X, some X, some X, none, none, none, some O] X O).2), (5, (minimaxL 3 [none, some O, some X, some X, some X, some O, none, none, some O] X O).2), (6, (minimaxL 3 [none, some O, some X, some X, some X, none, some O, none, some O] X O).2), (7, (minimaxL 3 [none, some O, some X, some X, some X, none, none, some O, some O] X O).2)] O = (some 0, 1)
  rw [mmv_2404, mmv_2671, mmv_2693, mmv_2707]
  rfl

theorem mmv_2715 : minimaxL 2 [none, some O, some X, some X, some O, some X, some X, none, some O] O X = (some 7, -1) := rfl

theorem mmv_2714 : minimaxL 3 [none, some O, some X, some X, some O, some X, none, none, some O] X O = (some 7, -1) := by
  rw [minimaxL_succ 2 [none, some O, some X, some X, some O, some X, none, none, some O] X O [0, 6, 7] rfl rfl (List.cons_ne_nil _ _)]
  show pickBest [(0, (minimaxL 2 [some X, some O, some X, some X, some O, some X, none, none, some O] O X).2), (6, (minimaxL 2 [none, some O, some X, some X, some O, some X, some X, none, some O] O X).2), (7, (minimaxL 2 [none, some O, some X, some X, some O, some X, none, some X, some O] O X).2)] X = (some 7, -1)
  rw [mmv_0169, mmv_2715, mmv_2660]
  rfl

theorem mmv_2716 : minimaxL 3 [none, some O, some X, some X, none, some X, none, some O, some O] X O = (some 4, 1) := rfl

theorem mmv_2713 : minimaxL 4 [none, some O, some X, some X, none, some X, none, none, some O] O X = (some 4, -1) := by
  rw [minimaxL_succ 3 [none, some O, some X, some X, none, some X, none, none, some O] O X [0, 4, 6, 7] rfl rfl (List.cons_ne_nil _ _)]
  show pickBest [(0, (minimaxL 3 [some O, some O, some X, some X, none, some X, none, none, some O] X O).2), (4, (minimaxL 3 [none, some O, some X, some X, some O, some X, none, none, some O] X O).2), (6, (minimaxL 3 [none, some O, some X, some X, none, some X, some O, none, some O] X O).2), (7, (minimaxL 3 [none, some O, some X, some X, none, some X, none, some O, some O] X O).2)] O = (some 4, -1)
  rw [mmv_2409, mmv_2714, mmv_2697, mmv_2716]
  rfl

theorem mmv_2718 : minimaxL 3 [none, some O, some X, some X, some O, none, some X, none, some O] X O = (some 0, 1) := rfl

theorem mmv_2719 : minimaxL 3 [none, some O, some X, some X, none, none, some X, some O, some O] X O = (some 4, 1) := rfl

theorem mmv_2717 : minimaxL 4 [none, some O, some X, some X, none, none, some X, none, some O] O X = (some 0, 1) := by
  rw [minimaxL_succ 3 [none, some O, some X, some X, none, none, some X, none, some O] O X [0, 4, 5, 7] rfl rfl (List.cons_ne_nil _ _)]
  show pickBest [(0, (minimaxL 3 [some O, some O, some X, some X, none, none, some X, none, some O] X O).2), (4, (minimaxL 3 [none, some O, some X, some X, some O, none, some X, none, some O] X O).2), (5, (minimaxL 3 [none, some O, some X, some X, none, some O, some X, none, some O] X O).2), (7, (minimaxL 3 [none, some O, some X, some X, none, none, some X, some O, some O] X O).2)] O = (some 0, 1)
  rw [mmv_2417, mmv_2718, mmv_2675, mmv_2719]
  rfl

theorem mmv_2720 : minimaxL 4 [none, some O, some X, some X, none, none, none, some X, some O] O X = (some 4, 0) := by
  rw [minimaxL_succ 3 [none, some O, some X, some X, none, none, none, some X, some O] O X [0, 4, 5, 6] rfl rfl (List.cons_ne_nil _ _)]
  show pickBest [(0, (minimaxL 3 [some O, some O, some X, some X, none, none, none, some X, some O] X O).2), (4, (minimaxL 3 [none, some O, some X, some X, some O, none, none, some X, some O] X O).2), (5, (minimaxL 3 [none, some O, some X, some X, none, some O, none, some X, some O] X O).2), (6, (minimaxL 3 [none, some O, some X, some X, none, none, some O, some X, some O] X O).2)] O = (some 4, 0)
  rw [mmv_2441, mmv_2659, mmv_2679, mmv_2699]
  rfl

theorem mmv_2711 : minimaxL 5 [none, some O, some X, some X, none, none, none, none, some O] X O = (some 6, 1) := by
  rw [minimaxL_succ 4 [none, some O, some X, some X, none, none, none, none, some O] X O [0, 4, 5, 6, 7] rfl rfl (List.cons_ne_nil _ _)]
  show pickBest [(0, (minimaxL 4 [some X, some O, some X, some X, none, none, none, none, some O] O X).2), (4, (minimaxL 4 [none, some O, some X, some X, some X, none, none, none, some O] O X).2), (5, (minimaxL 4 [none, some O, some X, some X, none, some X, none, none, some O] O X).2), (6, (minimaxL 4 [none, some O, some X, some X, none, none, some X, none, some O] O X).2), (7, (minimaxL 4 [none, some O, some X, some X, none, none, none, some X, some O] O X).2)] X = (some 6, 1)
  rw [mmv_0163, mmv_2712, mmv_2713, mmv_2717, mmv_2720]
  rfl

theorem mmv_2645 : minimaxL 6 [none, some O, some X, some X, none, none, none, none, none] O X = (some 4, 0) := by
  rw [minimaxL_succ 5 [none, some O, some X, some X, none, none, none, none, none] O X [0, 4, 5, 6, 7, 8] rfl rfl (List.cons_ne_nil _ _)]
  show pickBest [(0, (minimaxL 5 [some O, some O, some X, some X, none, none, none, none, none] X O).2), (4, (minimaxL 5 [none, some O, some X, some X, some O, none, none, none, none] X O).2), (5, (minimaxL 5 [none, some O, some X, some X, none, some O, none, none, none] X O).2), (6, (minimaxL 5 [none, some O, some X, some X, none, none, some O, none, none] X O).2), (7, (minimaxL 5 [none, some O, some X, some X, none, none, none, some O, none] X O).2), (8, (minimaxL 5 [none, some O, some X, some X, none, none, none, none, some O] X O).2)] O = (some 4, 0)
  rw [mmv_2399, mmv_2646, mmv_2663, mmv_2690, mmv_2705, mmv_2711]
  rfl

theorem mmv_2722 : minimaxL 5 [none, some O, some X, some O, some X, none, none, none, none] X O = (some 6, 1) := rfl

theorem mmv_2723 : minimaxL 5 [none, some O, some X, none, some X, some O, none, none, none] X O = (some 6, 1) := rfl

theorem mmv_2726 : minimaxL 3 [some O, some O, some X, none, some X, some X, some O, none, none] X O = (some 8, 1) := rfl

theorem mmv_2727 : minimaxL 3 [none, some O, some X, some O, some X, some X, some O, none, none] X O = (some 8, 1) := rfl

theorem mmv_2728 : minimaxL 3 [none, some O, some X, none, some X, some X, some O, some O, none] X O = (some 8, 1) := rfl

theorem mmv_2729 : minimaxL 3 [none, some O, some X, none, some X, some X, some O, none, some O] X O = (some 3, 1) := rfl

theorem mmv_2725 : minimaxL 4 [none, some O, some X, none, some X, some X, some O, none, none] O X = (some 0, 1) := by
  rw [minimaxL_succ 3 [none, some O, some X, none, some X, some X, some O, none, none] O X [0, 3, 7, 8] rfl rfl (List.cons_ne_nil _ _)]
  show pickBest [(0, (minimaxL 3 [some O, some O, some X, none, some X, some X, some O, none, none] X O).2), (3, (minimaxL 3 [none, some O, some X, some O, some X, some X, some O, none, none] X O).2), (7, (minimaxL 3 [none, some O, some X, none, some X, some X, some O, some O, none] X O).2), (8, (minimaxL 3 [none, some O, some X, none, some X, some X, some O, none, some O] X O).2)] O = (some 0, 1)
  rw [mmv_2726, mmv_2727, mmv_2728, mmv_2729]
  rfl

theorem mmv_2732 : minimaxL 2 [none, some O, some X, some O, some X, some X, some O, some X, none] O X = (some 0, -1) := rfl

theorem mmv_2733 : minimaxL 2 [none, some O, some X, some O, some X, none, some O, some X, some X] O X = (some 0, -1) := rfl

theorem mmv_2731 : minimaxL 3 [none, some O, some X, some O, some X, none, some O, some X, none] X O = (some 0, 0) := by
  rw [minimaxL_succ 2 [none, some O, some X, some O, some X, none, some O, some X, none] X O [0, 5, 8] rfl rfl (List.cons_ne_nil _ _)]
  show pickBest [(0, (minimaxL 2 [some X, some O, some X, some O, some X, none, some O, some X, none] O X).2), (5, (minimaxL 2 [none, some O, some X, some O, some X, some X, some O, some X, none] O X).2), (8, (minimaxL 2 [none, some O, some X, some O, some X, none, some O, some X, some X] O X).2)] X = (some 0, 0)
  rw [mmv_0047, mmv_2732, mmv_2733]
  rfl

theorem mmv_2736 : minimaxL 1 [some O, some O, some X, none, some X, some O, some O, some X, some X] X O = (some 3, 0) := by
  rw [minimaxL_succ 0 [some O, some O, some X, none, some X, some O, some O, some X, some X] X O [3] rfl rfl (List.cons_ne_nil _ _)]
  show pickBest [(3, (minimaxL 0 [some O, some O, some X, some X, some X, some O, some O, some X, some X] O X).2)] X = (some 3, 0)
  rw [mmv_2427]
  rfl

theorem mmv_2737 : minimaxL 1 [none, some O, some X, some O, some X, some O, some O, some X, some X] X O = (some 0, 1) := rfl

theorem mmv_2735 : minimaxL 2 [none, some O, some X, none, some X, some O, some O, some X, some X] O X = (some 0, 0) := by
  rw [minimaxL_succ 1 [none, some O, some X, none, some X, some O, some O, some X, some X] O X [0, 3] rfl rfl (List.cons_ne_nil _ _)]
  show pickBest [(0, (minimaxL 1 [some O, some O, some X, none, some X, some O, some O, some X, some X] X O).2), (3, (minimaxL 1 [none, some O, some X, some O, some X, some O, some O, some X, some X] X O).2)] O = (some 0, 0)
  rw [mmv_2736, mmv_2737]
  rfl

theorem mmv_2734 : minimaxL 3 [none, some O, some X, none, some X, some O, some O, some X, none] X O = (some 8, 0) := by
  rw [minimaxL_succ 2 [none, some O, some X, none, some X, some O, some O, some X, none] X O [0, 3, 8] rfl rfl (List.cons_ne_nil _ _)]
  show pickBest [(0, (minimaxL 2 [some X, some O, some X, none, some X, some O, some O, some X, none] O X).2), (3, (minimaxL 2 [none, some O, some X, some X, some X, some O, some O, some X, none] O X).2), (8, (minimaxL 2 [none, some O, some X, none, some X, some O, some O, some X, some X] O X).2)] X = (some 8, 0)
  rw [mmv_0114, mmv_2666, mmv_2735]
  rfl

theorem mmv_2740 : minimaxL 1 [none, some O, some X, some O, some X, some X, some O, some X, some O] X O = (some 0, 0) := by
  rw [minimaxL_succ 0 [none, some O, some X, some O, some X, some X, some O, some X, some O] X O [0] rfl rfl (List.cons_ne_nil _ _)]
  show pickBest [(0, (minimaxL 0 [some X, some O, some X, some O, some X, some X, some O, some X, some O] O X).2)] X = (some 0, 0)
  rw [mmv_0018]
  rfl

theorem mmv_2739 : minimaxL 2 [none, some O, some X, none, some X, some X, some O, some X, some O] O X = (some 3, 0) := by
  rw [minimaxL_succ 1 [none, some O, some X, none, some X, some X, some O, some X, some O] O X [0, 3] rfl rfl (List.cons_ne_nil _ _)]
  show pickBest [(0, (minimaxL 1 [some O, some O, some X, none, some X, some X, some O, some X, some O] X O).2), (3, (minimaxL 1 [none, some O, some X, some O, some X, some X, some O, some X, some O] X O).2)] O = (some 3, 0)
  rw [mmv_2582, mmv_2740]
  rfl

theorem mmv_2738 : minimaxL 3 [none, some O, some X, none, some X, none, some O, some X, some O] X O = (some 5, 0) := by
  rw [minimaxL_succ 2 [none, some O, some X, none, some X, none, some O, some X, some O] X O [0, 3, 5] rfl rfl (List.cons_ne_nil _ _)]
  show pickBest [(0, (minimaxL 2 [some X, some O, some X, none, some X, none, some O, some X, some O] O X).2), (3, (minimaxL 2 [none, some O, some X, some X, some X, none, some O, some X, some O] O X).2), (5, (minimaxL 2 [none, some O, some X, none, some X, some X, some O, some X, some O] O X).2)] X = (some 5, 0)
  rw [mmv_0144, mmv_2700, mmv_2739]
  rfl

theorem mmv_2730 : minimaxL 4 [none, some O, some X, none, some X, none, some O, some X, none] O X = (some 0, 0) := by
  rw [minimaxL_succ 3 [none, some O, some X, none, some X, none, some O, some X, none] O X [0, 3, 5, 8] rfl rfl (List.cons_ne_nil _ _)]
  show pickBest [(0, (minimaxL 3 [some O, some O, some X, none, some X, none, some O, some X, none] X O).2), (3, (minimaxL 3 [none, some O, some X, some O, some X, none, some O, some X, none] X O).2), (5, (minimaxL 3 [none, some O, some X, none, some X, some O, some O, some X, none] X O).2), (8, (minimaxL 3 [none, some O, some X, none, some X, none, some O, some X, some O] X O).2)] O = (some 0, 0)
  rw [mmv_2571, mmv_2731, mmv_2734, mmv_2738]
  rfl

theorem mmv_2742 : minimaxL 3 [some O, some O, some X, none, some X, none, some O, none, some X] X O = (some 5, 1) := rfl

theorem mmv_2743 : minimaxL 3 [none, some O, some X, some O, some X, none, some O, none, some X] X O = (some 5, 1) := rfl

theorem mmv_2744 : minimaxL 3 [none, some O, some X, none, some X, some O, some O, none, some X] X O = (some 0, 1) := rfl

theorem mmv_2745 : minimaxL 3 [none, some O, some X, none, some X, none, some O, some O, some X] X O = (some 5, 1) := rfl

theorem mmv_2741 : minimaxL 4 [none, some O, some X, none, some X, none, some O, none, some X] O X = (some 0, 1) := by
  rw [minimaxL_succ 3 [none, some O, some X, none, some X, none, some O, none, some X] O X [0, 3, 5, 7] rfl rfl (List.cons_ne_nil _ _)]
  show pickBest [(0, (minimaxL 3 [some O, some O, some X, none, some X, none, some O, none, some X] X O).2), (3, (minimaxL 3 [none, some O, some X, some O, some X, none, some O, none, some X] X O).2), (5, (minimaxL 3 [none, some O, some X, none, some X, some O, some O, none, some X] X O).2), (7, (minimaxL 3 [none, some O, some X, none, some X, none, some O, some O, some X] X O).2)] O = (some 0, 1)
  rw [mmv_2742, mmv_2743, mmv_2744, mmv_2745]
  rfl

theorem mmv_2724 : minimaxL 5 [none, some O, some X, none, some X, none, some O, none, none] X O = (some 8, 1) := by
  rw [minimaxL_succ 4 [none, some O, some X, none, some X, none, some O, none, none] X O [0, 3, 5, 7, 8] rfl rfl (List.cons_ne_nil _ _)]
  show pickBest [(0, (minimaxL 4 [some X, some O, some X, none, some X, none, some O, none, none] O X).2), (3, (minimaxL 4 [none, some O, some X, some X, some X, none, some O, none, none] O X).2), (5, (minimaxL 4 [none, some O, some X, none, some X, some X, some O, none, none] O X).2), (7, (minimaxL 4 [none, some O, some X, none, some X, none, some O, some X, none] O X).2), (8, (minimaxL 4 [none, some O, some X, none, some X, none, some O, none, some X] O X).2)] X = (some 8, 1)
  rw [mmv_0140, mmv_2691, mmv_2725, mmv_2730, mmv_2741]
  rfl

theorem mmv_2746 : minimaxL 5 [none, some O, some X, none, some X, none, none, some O, none] X O = (some 6, 1) := rfl

theorem mmv_2747 : minimaxL 5 [none, some O, some X, none, some X, none, none, none, some O] X O = (some 6, 1) := rfl

theorem mmv_2721 : minimaxL 6 [none, some O, some X, none, some X, none, none, none, none] O X = (some 0, 1) := by
  rw [minimaxL_succ 5 [none, some O, some X, none, some X, none, none, none, none] O X [0, 3, 5, 6, 7, 8] rfl rfl (List.cons_ne_nil _ _)]
  show pickBest [(0, (minimaxL 5 [some O, some O, some X, none, some X, none, none, none, none] X O).2), (3, (minimaxL 5 [none, some O, some X, some O, some X, none, none, none, none] X O).2), (5, (minimaxL 5 [none, some O, some X, none, some X, some O, none, none, none] X O).2), (6, (minimaxL 5 [none, some O, some X, none, some X, none, some O, none, none] X O).2), (7, (minimaxL 5 [none, some O, some X, none, some X, none, none, some O, none] X O).2), (8, (minimaxL 5 [none, some O, some X, none, some X, none, none, none, some O] X O).2)] O = (some 0, 1)
  rw [mmv_2529, mmv_2722, mmv_2723, mmv_2724, mmv_2746, mmv_2747]
  rfl

theorem mmv_2749 : minimaxL 5 [none, some O, some X, some O, none, some X, none, none, none] X O = (some 8, 1) := rfl

theorem mmv_2750 : minimaxL 5 [none, some O, some X, none, some O, some X, none, none, none] X O = (some 8, 1) := rfl

theorem mmv_2751 : minimaxL 5 [none, some O, some X, none, none, some X, some O, none, none] X O = (some 8, 1) := rfl

theorem mmv_2752 : minimaxL 5 [none, some O, some X, none, none, some X, none, some O, none] X O = (some 8, 1) := rfl

theorem mmv_2755 : minimaxL 3 [none, some O, some X, some O, some X, some X, none, none, some O] X O = (some 6, 1) := rfl

theorem mmv_2756 : minimaxL 3 [none, some O, some X, none, some X, some X, none, some O, some O] X O = (some 6, 1) := rfl

theorem mmv_2754 : minimaxL 4 [none, some O, some X, none, some X, some X, none, none, some O] O X = (some 0, 1) := by
  rw [minimaxL_succ 3 [none, some O, some X, none, some X, some X, none, none, some O] O X [0, 3, 6, 7] rfl rfl (List.cons_ne_nil _ _)]
  show pickBest [(0, (minimaxL 3 [some O, some O, some X, none, some X, some X, none, none, some O] X O).2), (3, (minimaxL 3 [none, some O, some X, some O, some X, some X, none, none, some O] X O).2), (6, (minimaxL 3 [none, some O, some X, none, some X, some X, some O, none, some O] X O).2), (7, (minimaxL 3 [none, some O, some X, none, some X, some X, none, some O, some O] X O).2)] O = (some 0, 1)
  rw [mmv_2546, mmv_2755, mmv_2729, mmv_2756]
  rfl

theorem mmv_2758 : minimaxL 3 [some O, some O, some X, none, none, some X, some X, none, some O] X O = (some 4, 1) := rfl

theorem mmv_2759 : minimaxL 3 [none, some O, some X, some O, none, some X, some X, none, some O] X O = (some 4, 1) := rfl

theorem mmv_2761 : minimaxL 2 [none, some O, some X, none, some O, some X, some X, some X, some O] O X = (some 0, -1) := rfl

theorem mmv_2760 : minimaxL 3 [none, some O, some X, none, some O, some X, some X, none, some O] X O = (some 7, -1) := by
  rw [minimaxL_succ 2 [none, some O, some X, none, some O, some X, some X, none, some O] X O [0, 3, 7] rfl rfl (List.cons_ne_nil _ _)]
  show pickBest [(0, (minimaxL 2 [some X, some O, some X, none, some O, some X, some X, none, some O] O X).2), (3, (minimaxL 2 [none, some O, some X, some X, some O, some X, some X, none, some O] O X).2), (7, (minimaxL 2 [none, some O, some X, none, some O, some X, some X, some X, some O] O X).2)] X = (some 7, -1)
  rw [mmv_0170, mmv_2715, mmv_2761]
  rfl

theorem mmv_2762 : minimaxL 3 [none, some O, some X, none, none, some X, some X, some O, some O] X O = (some 4, 1) := rfl

theorem mmv_2757 : minimaxL 4 [none, some O, some X, none, none, some X, some X, none, some O] O X = (some 4, -1) := by
  rw [minimaxL_succ 3 [none, some O, some X, none, none, some X, some X, none, some O] O X [0, 3, 4, 7] rfl rfl (List.cons_ne_nil _ _)]
  show pickBest [(0, (minimaxL 3 [some O, some O, some X, none, none, some X, some X, none, some O] X O).2), (3, (minimaxL 3 [none, some O, some X, some O, none, some X, some X, none, some O] X O).2), (4, (minimaxL 3 [none, some O, some X, none, some O, some X, some X, none, some O] X O).2), (7, (minimaxL 3 [none, some O, some X, none, none, some X, some X, some O, some O] X O).2)] O = (some 4, -1)
  rw [mmv_2758, mmv_2759, mmv_2760, mmv_2762]
  rfl

theorem mmv_2765 : minimaxL 2 [none, some O, some X, some O, some X, some X, none, some X, some O] O X = (some 6, 0) := by
  rw [minimaxL_succ 1 [none, some O, some X, some O, some X, some X, none, some X, some O] O X [0, 6] rfl rfl (List.cons_ne_nil _ _)]
  show pickBest [(0, (minimaxL 1 [some O, some O, some X, some O, some X, some X, none, some X, some O] X O).2), (6, (minimaxL 1 [none, some O, some X, some O, some X, some X, some O, some X, some O] X O).2)] O = (some 6, 0)
  rw [mmv_2581, mmv_2740]
  rfl

theorem mmv_2767 : minimaxL 1 [some O, some O, some X, some O, none, some X, some X, some X, some O] X O = (some 4, 1) := rfl

theorem mmv_2768 : minimaxL 1 [none, some O, some X, some O, some O, some X, some X, some X, some O] X O = (some 0, 0) := by
  rw [minimaxL_succ 0 [none, some O, some X, some O, some O, some X, some X, some X, some O] X O [0] rfl rfl (List.cons_ne_nil _ _)]
  show pickBest [(0, (minimaxL 0 [some X, some O, some X, some O, some O, some X, some X, some X, some O] O X).2)] X = (some 0, 0)
  rw [mmv_0022]
  rfl

theorem mmv_2766 : minimaxL 2 [none, some O, some X, some O, none, some X, some X, some X, some O] O X = (some 4, 0) := by
  rw [minimaxL_succ 1 [none, some O, some X, some O, none, some X, some X, some X, some O] O X [0, 4] rfl rfl (List.cons_ne_nil _ _)]
  show pickBest [(0, (minimaxL 1 [some O, some O, some X, some O, none, some X, some X, some X, some O] X O).2), (4, (minimaxL 1 [none, some O, some X, some O, some O, some X, some X, some X, some O] X O).2)] O = (some 4, 0)
  rw [mmv_2767, mmv_2768]
  rfl

theorem mmv_2764 : minimaxL 3 [none, some O, some X, some O, none, some X, none, some X, some O] X O = (some 6, 0) := by
  rw [minimaxL_succ 2 [none, some O, some X, some O, none, some X, none, some X, some O] X O [0, 4, 6] rfl rfl (List.cons_ne_nil _ _)]
  show pickBest [(0, (minimaxL 2 [some X, some O, some X, some O, none, some X, none, some X, some O] O X).2), (4, (minimaxL 2 [none, some O, some X, some O, some X, some X, none, some X, some O] O X).2), (6, (minimaxL 2 [none, some O, some X, some O, none, some X, some X, some X, some O] O X).2)] X = (some 6, 0)
  rw [mmv_0024, mmv_2765, mmv_2766]
  rfl

theorem mmv_2769 : minimaxL 3 [none, some O, some X, none, some O, some X, none, some X, some O] X O = (some 0, 0) := by
  rw [minimaxL_succ 2 [none, some O, some X, none, some O, some X, none, some X, some O] X O [0, 3, 6] rfl rfl (List.cons_ne_nil _ _)]
  show pickBest [(0, (minimaxL 2 [some X, some O, some X, none, some O, some X, none, some X, some O] O X).2), (3, (minimaxL 2 [none, some O, some X, some X, some O, some X, none, some X, some O] O X).2), (6, (minimaxL 2 [none, some O, some X, none, some O, some X, some X, some X, some O] O X).2)] X = (some 0, 0)
  rw [mmv_0085, mmv_2660, mmv_2761]
  rfl

theorem mmv_2770 : minimaxL 3 [none, some O, some X, none, none, some X, some O, some X, some O] X O = (some 4, 0) := by
  rw [minimaxL_succ 2 [none, some O, some X, none, none, some X, some O, some X, some O] X O [0, 3, 4] rfl rfl (List.cons_ne_nil _ _)]
  show pickBest [(0, (minimaxL 2 [some X, some O, some X, none, none, some X, some O, some X, some O] O X).2), (3, (minimaxL 2 [none, some O, some X, some X, none, some X, some O, some X, some O] O X).2), (4, (minimaxL 2 [none, some O, some X, none, some X, some X, some O, some X, some O] O X).2)] X = (some 4, 0)
  rw [mmv_0149, mmv_2701, mmv_2739]
  rfl

theorem mmv_2763 : minimaxL 4 [none, some O, some X, none, none, some X, none, some X, some O] O X = (some 3, 0) := by
  rw [minimaxL_succ 3 [none, some O, some X, none, none, some X, none, some X, some O] O X [0, 3, 4, 6] rfl rfl (List.cons_ne_nil _ _)]
  show pickBest [(0, (minimaxL 3 [some O, some O, some X, none, none, some X, none, some X, some O] X O).2), (3, (minimaxL 3 [none, some O, some X, some O, none, some X, none, some X, some O] X O).2), (4, (minimaxL 3 [none, some O, some X, none, some O, some X, none, some X, some O] X O).2), (6, (minimaxL 3 [none, some O, some X, none, none, some X, some O, some X, some O] X O).2)] O = (some 3, 0)
  rw [mmv_2579, mmv_2764, mmv_2769, mmv_2770]
  rfl

theorem mmv_2753 : minimaxL 5 [none, some O, some X, none, none, some X, none, none, some O] X O = (some 4, 1) := by
  rw [minimaxL_succ 4 [none, some O, some X, none, none, some X, none, none, some O] X O [0, 3, 4, 6, 7] rfl rfl (List.cons_ne_nil _ _)]
  show pickBest [(0, (minimaxL 4 [some X, some O, some X, none, none, some X, none, none, some O] O X).2), (3, (minimaxL 4 [none, some O, some X, some X, none, some X, none, none, some O] O X).2), (4, (minimaxL 4 [none, some O, some X, none, some X, some X, none, none, some O] O X).2), (6, (minimaxL 4 [none, some O, some X, none, none, some X, some X, none, some O] O X).2), (7, (minimaxL 4 [none, some O, some X, none, none, some X, none, some X, some O] O X).2)] X = (some 4, 1)
  rw [mmv_0167, mmv_2713, mmv_2754, mmv_2757, mmv_2763]
  rfl

theorem mmv_2748 : minimaxL 6 [none, some O, some X, none, none, some X, none, none, none] O X = (some 0, 1) := by
  rw [minimaxL_succ 5 [none, some O, some X, none, none, some X, none, none, none] O X [0, 3, 4, 6, 7, 8] rfl rfl (List.cons_ne_nil _ _)]
  show pickBest [(0, (minimaxL 5 [some O, some O, some X, none, none, some X, none, none, none] X O).2), (3, (minimaxL 5 [none, some O, some X, some O, none, some X, none, none, none] X O).2), (4, (minimaxL 5 [none, some O, some X, none, some O, some X, none, none, none] X O).2), (6, (minimaxL 5 [none, some O, some X, none, none, some X, some O, none, none] X O).2), (7, (minimaxL 5 [none, some O, some X, none, none, some X, none, some O, none] X O).2), (8, (minimaxL 5 [none, some O, some X, none, none, some X, none, none, some O] X O).2)] O = (some 0, 1)
  rw [mmv_2539, mmv_2749, mmv_2750, mmv_2751, mmv_2752, mmv_2753]
  rfl

theorem mmv_2772 : minimaxL 5 [none, some O, some X, some O, none, none, some X, none, none] X O = (some 4, 1) := rfl

theorem mmv_2774 : minimaxL 4 [none, some O, some X, none, some O, some X, some X, none, none] O X = (some 7, -1) := rfl

theorem mmv_2776 : minimaxL 3 [none, some O, some X, some O, some O, none, some X, some X, none] X O = (some 8, 1) := rfl

theorem mmv_2777 : minimaxL 3 [none, some O, some X, none, some O, some O, some X, some X, none] X O = (some 8, 1) := rfl

theorem mmv_2778 : minimaxL 3 [none, some O, some X, none, some O, none, some X, some X, some O] X O = (some 0, 0) := by
  rw [minimaxL_succ 2 [none, some O, some X, none, some O, none, some X, some X, some O] X O [0, 3, 5] rfl rfl (List.cons_ne_nil _ _)]
  show pickBest [(0, (minimaxL 2 [some X, some O, some X, none, some O, none, some X, some X, some O] O X).2), (3, (minimaxL 2 [none, some O, some X, some X, some O, none, some X, some X, some O] O X).2), (5, (minimaxL 2 [none, some O, some X, none, some O, some X, some X, some X, some O] O X).2)] X = (some 0, 0)
  rw [mmv_0086, mmv_2661, mmv_2761]
  rfl

theorem mmv_2775 : minimaxL 4 [none, some O, some X, none, some O, none, some X, some X, none] O X = (some 8, 0) := by
  rw [minimaxL_succ 3 [none, some O, some X, none, some O, none, some X, some X, none] O X [0, 3, 5, 8] rfl rfl (List.cons_ne_nil _ _)]
  show pickBest [(0, (minimaxL 3 [some O, some O, some X, none, some O, none, some X, some X, none] X O).2), (3, (minimaxL 3 [none, some O, some X, some O, some O, none, some X, some X, none] X O).2), (5, (minimaxL 3 [none, some O, some X, none, some O, some O, some X, some X, none] X O).2), (8, (minimaxL 3 [none, some O, some X, none, some O, none, some X, some X, some O] X O).2)] O = (some 8, 0)
  rw [mmv_2586, mmv_2776, mmv_2777, mmv_2778]
  rfl

theorem mmv_2779 : minimaxL 4 [none, some O, some X, none, some O, none, some X, none, some X] O X = (some 7, -1) := rfl

theorem mmv_2773 : minimaxL 5 [none, some O, some X, none, some O, none, some X, none, none] X O = (some 7, 0) := by
  rw [minimaxL_succ 4 [none, some O, some X, none, some O, none, some X, none, none] X O [0, 3, 5, 7, 8] rfl rfl (List.cons_ne_nil _ _)]
  show pickBest [(0, (minimaxL 4 [some X, some O, some X, none, some O, none, some X, none, none] O X).2), (3, (minimaxL 4 [none, some O, some X, some X, some O, none, some X, none, none] O X).2), (5, (minimaxL 4 [none, some O, some X, none, some O, some X, some X, none, none] O X).2), (7, (minimaxL 4 [none, some O, some X, none, some O, none, some X, some X, none] O X).2), (8, (minimaxL 4 [none, some O, some X, none, some O, none, some X, none, some X] O X).2)] X = (some 7, 0)
  rw [mmv_0066, mmv_2648, mmv_2774, mmv_2775, mmv_2779]
  rfl

theorem mmv_2780 : minimaxL 5 [none, some O, some X, none, none, some O, some X, none, none] X O = (some 4, 1) := rfl

theorem mmv_2781 : minimaxL 5 [none, some O, some X, none, none, none, some X, some O, none] X O = (some 4, 1) := rfl

theorem mmv_2782 : minimaxL 5 [none, some O, some X, none, none, none, some X, none, some O] X O = (some 4, 1) := rfl

theorem mmv_2771 : minimaxL 6 [none, some O, some X, none, none, none, some X, none, none] O X = (some 4, 0) := by
  rw [minimaxL_succ 5 [none, some O, some X, none, none, none, some X, none, none] O X [0, 3, 4, 5, 7, 8] rfl rfl (List.cons_ne_nil _ _)]
  show pickBest [(0, (minimaxL 5 [some O, some O, some X, none, none, none, some X, none, none] X O).2), (3, (minimaxL 5 [none, some O, some X, some O, none, none, some X, none, none] X O).2), (4, (minimaxL 5 [none, some O, some X, none, some O, none, some X, none, none] X O).2), (5, (minimaxL 5 [none, some O, some X, none, none, some O, some X, none, none] X O).2), (7, (minimaxL 5 [none, some O, some X, none, none, none, some X, some O, none] X O).2), (8, (minimaxL 5 [none, some O, some X, none, none, none, some X, none, some O] X O).2)] O = (some 4, 0)
  rw [mmv_2553, mmv_2772, mmv_2773, mmv_2780, mmv_2781, mmv_2782]
  rfl

theorem mmv_2786 : minimaxL 3 [none, some O, some X, some O, some X, some O, none, some X, none] X O = (some 6, 1) := rfl

theorem mmv_2787 : minimaxL 3 [none, some O, some X, some O, some X, none, none, some X, some O] X O = (some 6, 1) := rfl

theorem mmv_2785 : minimaxL 4 [none, some O, some X, some O, some X, none, none, some X, none] O X = (some 6, 0) := by
  rw [minimaxL_succ 3 [none, some O, some X, some O, some X, none, none, some X, none] O X [0, 5, 6, 8] rfl rfl (List.cons_ne_nil _ _)]
  show pickBest [(0, (minimaxL 3 [some O, some O, some X, some O, some X, none, none, some X, none] X O).2), (5, (minimaxL 3 [none, some O, some X, some O, some X, some O, none, some X, none] X O).2), (6, (minimaxL 3 [none, some O, some X, some O, some X, none, some O, some X, none] X O).2), (8, (minimaxL 3 [none, some O, some X, some O, some X, none, none, some X, some O] X O).2)] O = (some 6, 0)
  rw [mmv_2569, mmv_2786, mmv_2731, mmv_2787]
  rfl

theorem mmv_2789 : minimaxL 3 [none, some O, some X, some O, some O, some X, none, some X, none] X O = (some 8, 1) := rfl

theorem mmv_2790 : minimaxL 3 [none, some O, some X, some O, none, some X, some O, some X, none] X O = (some 8, 1) := rfl

theorem mmv_2788 : minimaxL 4 [none, some O, some X, some O, none, some X, none, some X, none] O X = (some 8, 0) := by
  rw [minimaxL_succ 3 [none, some O, some X, some O, none, some X, none, some X, none] O X [0, 4, 6, 8] rfl rfl (List.cons_ne_nil _ _)]
  show pickBest [(0, (minimaxL 3 [some O, some O, some X, some O, none, some X, none, some X, none] X O).2), (4, (minimaxL 3 [none, some O, some X, some O, some O, some X, none, some X, none] X O).2), (6, (minimaxL 3 [none, some O, some X, some O, none, some X, some O, some X, none] X O).2), (8, (minimaxL 3 [none, some O, some X, some O, none, some X, none, some X, some O] X O).2)] O = (some 8, 0)
  rw [mmv_2576, mmv_2789, mmv_2790, mmv_2764]
  rfl

theorem mmv_2792 : minimaxL 3 [none, some O, some X, some O, none, some O, some X, some X, none] X O = (some 4, 1) := rfl

theorem mmv_2793 : minimaxL 3 [none, some O, some X, some O, none, none, some X, some X, some O] X O = (some 4, 1) := rfl

theorem mmv_2791 : minimaxL 4 [none, some O, some X, some O, none, none, some X, some X, none] O X = (some 0, 1) := by
  rw [minimaxL_succ 3 [none, some O, some X, some O, none, none, some X, some X, none] O X [0, 4, 5, 8] rfl rfl (List.cons_ne_nil _ _)]
  show pickBest [(0, (minimaxL 3 [some O, some O, some X, some O, none, none, some X, some X, none] X O).2), (4, (minimaxL 3 [none, some O, some X, some O, some O, none, some X, some X, none] X O).2), (5, (minimaxL 3 [none, some O, some X, some O, none, some O, some X, some X, none] X O).2), (8, (minimaxL 3 [none, some O, some X, some O, none, none, some X, some X, some O] X O).2)] O = (some 0, 1)
  rw [mmv_2585, mmv_2776, mmv_2792, mmv_2793]
  rfl

theorem mmv_2795 : minimaxL 3 [none, some O, some X, some O, some O, none, none, some X, some X] X O = (some 5, 1) := rfl

theorem mmv_2796 : minimaxL 3 [none, some O, some X, some O, none, some O, none, some X, some X] X O = (some 6, 1) := rfl

theorem mmv_2797 : minimaxL 3 [none, some O, some X, some O, none, none, some O, some X, some X] X O = (some 5, 1) := rfl

theorem mmv_2794 : minimaxL 4 [none, some O, some X, some O, none, none, none, some X, some X] O X = (some 0, 1) := by
  rw [minimaxL_succ 3 [none, some O, some X, some O, none, none, none, some X, some X] O X [0, 4, 5, 6] rfl rfl (List.cons_ne_nil _ _)]
  show pickBest [(0, (minimaxL 3 [some O, some O, some X, some O, none, none, none, some X, some X] X O).2), (4, (minimaxL 3 [none, some O, some X, some O, some O, none, none, some X, some X] X O).2), (5, (minimaxL 3 [none, some O, some X, some O, none, some O, none, some X, some X] X O).2), (6, (minimaxL 3 [none, some O, some X, some O, none, none, some O, some X, some X] X O).2)] O = (some 0, 1)
  rw [mmv_2590, mmv_2795, mmv_2796, mmv_2797]
  rfl

theorem mmv_2784 : minimaxL 5 [none, some O, some X, some O, none, none, none, some X, none] X O = (some 8, 1) := by
  rw [minimaxL_succ 4 [none, some O, some X, some O, none, none, none, some X, none] X O [0, 4, 5, 6, 8] rfl rfl (List.cons_ne_nil _ _)]
  show pickBest [(0, (minimaxL 4 [some X, some O, some X, some O, none, none, none, some X, none] O X).2), (4, (minimaxL 4 [none, some O, some X, some O, some X, none, none, some X, none] O X).2), (5, (minimaxL 4 [none, some O, some X, some O, none, some X, none, some X, none] O X).2), (6, (minimaxL 4 [none, some O, some X, some O, none, none, some X, some X, none] O X).2), (8, (minimaxL 4 [none, some O, some X, some O, none, none, none, some X, some X] O X).2)] X = (some 8, 1)
  rw [mmv_0035, mmv_2785, mmv_2788, mmv_2791, mmv_2794]
  rfl

theorem mmv_2800 : minimaxL 3 [none, some O, some X, none, some O, some X, some O, some X, none] X O = (some 8, 1) := rfl

theorem mmv_2799 : minimaxL 4 [none, some O, some X, none, some O, some X, none, some X, none] O X = (some 8, 0) := by
  rw [minimaxL_succ 3 [none, some O, some X, none, some O, some X, none, some X, none] O X [0, 3, 6, 8] rfl rfl (List.cons_ne_nil _ _)]
  show pickBest [(0, (minimaxL 3 [some O, some O, some X, none, some O, some X, none, some X, none] X O).2), (3, (minimaxL 3 [none, some O, some X, some O, some O, some X, none, some X, none] X O).2), (6, (minimaxL 3 [none, some O, some X, none, some O, some X, some O, some X, none] X O).2), (8, (minimaxL 3 [none, some O, some X, none, some O, some X, none, some X, some O] X O).2)] O = (some 8, 0)
  rw [mmv_2577, mmv_2789, mmv_2800, mmv_2769]
  rfl

theorem mmv_2802 : minimaxL 3 [none, some O, some X, none, some O, some O, none, some X, some X] X O = (some 6, 1) := rfl

theorem mmv_2803 : minimaxL 3 [none, some O, some X, none, some O, none, some O, some X, some X] X O = (some 5, 1) := rfl

theorem mmv_2801 : minimaxL 4 [none, some O, some X, none, some O, none, none, some X, some X] O X = (some 0, 1) := by
  rw [minimaxL_succ 3 [none, some O, some X, none, some O, none, none, some X, some X] O X [0, 3, 5, 6] rfl rfl (List.cons_ne_nil _ _)]
  show pickBest [(0, (minimaxL 3 [some O, some O, some X, none, some O, none, none, some X, some X] X O).2), (3, (minimaxL 3 [none, some O, some X, some O, some O, none, none, some X, some X] X O).2), (5, (minimaxL 3 [none, some O, some X, none, some O, some O, none, some X, some X] X O).2), (6, (minimaxL 3 [none, some O, some X, none, some O, none, some O, some X, some X] X O).2)] O = (some 0, 1)
  rw [mmv_2591, mmv_2795, mmv_2802, mmv_2803]
  rfl

theorem mmv_2798 : minimaxL 5 [none, some O, some X, none, some O, none, none, some X, none] X O = (some 8, 1) := by
  rw [minimaxL_succ 4 [none, some O, some X, none, some O, none, none, some X, none] X O [0, 3, 5, 6, 8] rfl rfl (List.cons_ne_nil _ _)]
  show pickBest [(0, (minimaxL 4 [some X, some O, some X, none, some O, none, none, some X, none] O X).2), (3, (minimaxL 4 [none, some O, some X, some X, some O, none, none, some X, none] O X).2), (5, (minimaxL 4 [none, some O, some X, none, some O, some X, none, some X, none] O X).2), (6, (minimaxL 4 [none, some O, some X, none, some O, none, some X, some X, none] O X).2), (8, (minimaxL 4 [none, some O, some X, none, some O, none, none, some X, some X] O X).2)] X = (some 8, 1)
  rw [mmv_0067, mmv_2649, mmv_2799, mmv_2775, mmv_2801]
  rfl

theorem mmv_2806 : minimaxL 3 [none, some O, some X, none, some X, some O, none, some X, some O] X O = (some 6, 1) := rfl

theorem mmv_2805 : minimaxL 4 [none, some O, some X, none, some X, some O, none, some X, none] O X = (some 6, 0) := by
  rw [minimaxL_succ 3 [none, some O, some X, none, some X, some O, none, some X, none] O X [0, 3, 6, 8] rfl rfl (List.cons_ne_nil _ _)]
  show pickBest [(0, (minimaxL 3 [some O, some O, some X, none, some X, some O, none, some X, none] X O).2), (3, (minimaxL 3 [none, some O, some X, some O, some X, some O, none, some X, none] X O).2), (6, (minimaxL 3 [none, some O, some X, none, some X, some O, some O, some X, none] X O).2), (8, (minimaxL 3 [none, some O, some X, none, some X, some O, none, some X, some O] X O).2)] O = (some 6, 0)
  rw [mmv_2570, mmv_2786, mmv_2734, mmv_2806]
  rfl

theorem mmv_2808 : minimaxL 3 [none, some O, some X, none, none, some O, some X, some X, some O] X O = (some 4, 1) := rfl

theorem mmv_2807 : minimaxL 4 [none, some O, some X, none, none, some O, some X, some X, none] O X = (some 0, 1) := by
  rw [minimaxL_succ 3 [none, some O, some X, none, none, some O, some X, some X, none] O X [0, 3, 4, 8] rfl rfl (List.cons_ne_nil _ _)]
  show pickBest [(0, (minimaxL 3 [some O, some O, some X, none, none, some O, some X, some X, none] X O).2), (3, (minimaxL 3 [none, some O, some X, some O, none, some O, some X, some X, none] X O).2), (4, (minimaxL 3 [none, some O, some X, none, some O, some O, some X, some X, none] X O).2), (8, (minimaxL 3 [none, some O, some X, none, none, some O, some X, some X, some O] X O).2)] O = (some 0, 1)
  rw [mmv_2587, mmv_2792, mmv_2777, mmv_2808]
  rfl

theorem mmv_2810 : minimaxL 3 [none, some O, some X, none, none, some O, some O, some X, some X] X O = (some 4, 0) := by
  rw [minimaxL_succ 2 [none, some O, some X, none, none, some O, some O, some X, some X] X O [0, 3, 4] rfl rfl (List.cons_ne_nil _ _)]
  show pickBest [(0, (minimaxL 2 [some X, some O, some X, none, none, some O, some O, some X, some X] O X).2), (3, (minimaxL 2 [none, some O, some X, some X, none, some O, some O, some X, some X] O X).2), (4, (minimaxL 2 [none, some O, some X, none, some X, some O, some O, some X, some X] O X).2)] X = (some 4, 0)
  rw [mmv_0116, mmv_2678, mmv_2735]
  rfl

theorem mmv_2809 : minimaxL 4 [none, some O, some X, none, none, some O, none, some X, some X] O X = (some 6, 0) := by
  rw [minimaxL_succ 3 [none, some O, some X, none, none, some O, none, some X, some X] O X [0, 3, 4, 6] rfl rfl (List.cons_ne_nil _ _)]
  show pickBest [(0, (minimaxL 3 [some O, some O, some X, none, none, some O, none, some X, some X] X O).2), (3, (minimaxL 3 [none, some O, some X, some O, none, some O, none, some X, some X] X O).2), (4, (minimaxL 3 [none, some O, some X, none, some O, some O, none, some X, some X] X O).2), (6, (minimaxL 3 [none, some O, some X, none, none, some O, some O, some X, some X] X O).2)] O = (some 6, 0)
  rw [mmv_2592, mmv_2796, mmv_2802, mmv_2810]
  rfl

theorem mmv_2804 : minimaxL 5 [none, some O, some X, none, none, some O, none, some X, none] X O = (some 6, 1) := by
  rw [minimaxL_succ 4 [none, some O, some X, none, none, some O, none, some X, none] X O [0, 3, 4, 6, 8] rfl rfl (List.cons_ne_nil _ _)]
  show pickBest [(0, (minimaxL 4 [some X, some O, some X, none, none, some O, none, some X, none] O X).2), (3, (minimaxL 4 [none, some O, some X, some X, none, some O, none, some X, none] O X).2), (4, (minimaxL 4 [none, some O, some X, none, some X, some O, none, some X, none] O X).2), (6, (minimaxL 4 [none, some O, some X, none, none, some O, some X, some X, none] O X).2), (8, (minimaxL 4 [none, some O, some X, none, none, some O, none, some X, some X] O X).2)] X = (some 6, 1)
  rw [mmv_0112, mmv_2676, mmv_2805, mmv_2807, mmv_2809]
  rfl

theorem mmv_2812 : minimaxL 4 [none, some O, some X, none, none, some X, some O, some X, none] O X = (some 8, 0) := by
  rw [minimaxL_succ 3 [none, some O, some X, none, none, some X, some O, some X, none] O X [0, 3, 4, 8] rfl rfl (List.cons_ne_nil _ _)]
  show pickBest [(0, (minimaxL 3 [some O, some O, some X, none, none, some X, some O, some X, none] X O).2), (3, (minimaxL 3 [none, some O, some X, some O, none, some X, some O, some X, none] X O).2), (4, (minimaxL 3 [none, some O, some X, none, some O, some X, some O, some X, none] X O).2), (8, (minimaxL 3 [none, some O, some X, none, none, some X, some O, some X, some O] X O).2)] O = (some 8, 0)
  rw [mmv_2578, mmv_2790, mmv_2800, mmv_2770]
  rfl

theorem mmv_2813 : minimaxL 4 [none, some O, some X, none, none, none, some O, some X, some X] O X = (some 5, 0) := by
  rw [minimaxL_succ 3 [none, some O, some X, none, none, none, some O, some X, some X] O X [0, 3, 4, 5] rfl rfl (List.cons_ne_nil _ _)]
  show pickBest [(0, (minimaxL 3 [some O, some O, some X, none, none, none, some O, some X, some X] X O).2), (3, (minimaxL 3 [none, some O, some X, some O, none, none, some O, some X, some X] X O).2), (4, (minimaxL 3 [none, some O, some X, none, some O, none, some O, some X, some X] X O).2), (5, (minimaxL 3 [none, some O, some X, none, none, some O, some O, some X, some X] X O).2)] O = (some 5, 0)
  rw [mmv_2593, mmv_2797, mmv_2803, mmv_2810]
  rfl

theorem mmv_2811 : minimaxL 5 [none, some O, some X, none, none, none, some O, some X, none] X O = (some 8, 0) := by
  rw [minimaxL_succ 4 [none, some O, some X, none, none, none, some O, some X, none] X O [0, 3, 4, 5, 8] rfl rfl (List.cons_ne_nil _ _)]
  show pickBest [(0, (minimaxL 4 [some X, some O, some X, none, none, none, some O, some X, none] O X).2), (3, (minimaxL 4 [none, some O, some X, some X, none, none, some O, some X, none] O X).2), (4, (minimaxL 4 [none, some O, some X, none, some X, none, some O, some X, none] O X).2), (5, (minimaxL 4 [none, some O, some X, none, none, some X, some O, some X, none] O X).2), (8, (minimaxL 4 [none, some O, some X, none, none, none, some O, some X, some X] O X).2)] X = (some 8, 0)
  rw [mmv_0150, mmv_2698, mmv_2730, mmv_2812, mmv_2813]
  rfl

theorem mmv_2815 : minimaxL 4 [none, some O, some X, none, some X, none, none, some X, some O] O X = (some 6, 0) := by
  rw [minimaxL_succ 3 [none, some O, some X, none, some X, none, none, some X, some O] O X [0, 3, 5, 6] rfl rfl (List.cons_ne_nil _ _)]
  show pickBest [(0, (minimaxL 3 [some O, some O, some X, none, some X, none, none, some X, some O] X O).2), (3, (minimaxL 3 [none, some O, some X, some O, some X, none, none, some X, some O] X O).2), (5, (minimaxL 3 [none, some O, some X, none, some X, some O, none, some X, some O] X O).2), (6, (minimaxL 3 [none, some O, some X, none, some X, none, some O, some X, some O] X O).2)] O = (some 6, 0)
  rw [mmv_2574, mmv_2787, mmv_2806, mmv_2738]
  rfl

theorem mmv_2816 : minimaxL 4 [none, some O, some X, none, none, none, some X, some X, some O] O X = (some 4, 0) := by
  rw [minimaxL_succ 3 [none, some O, some X, none, none, none, some X, some X, some O] O X [0, 3, 4, 5] rfl rfl (List.cons_ne_nil _ _)]
  show pickBest [(0, (minimaxL 3 [some O, some O, some X, none, none, none, some X, some X, some O] X O).2), (3, (minimaxL 3 [none, some O, some X, some O, none, none, some X, some X, some O] X O).2), (4, (minimaxL 3 [none, some O, some X, none, some O, none, some X, some X, some O] X O).2), (5, (minimaxL 3 [none, some O, some X, none, none, some O, some X, some X, some O] X O).2)] O = (some 4, 0)
  rw [mmv_2588, mmv_2793, mmv_2778, mmv_2808]
  rfl

theorem mmv_2814 : minimaxL 5 [none, some O, some X, none, none, none, none, some X, some O] X O = (some 6, 0) := by
  rw [minimaxL_succ 4 [none, some O, some X, none, none, none, none, some X, some O] X O [0, 3, 4, 5, 6] rfl rfl (List.cons_ne_nil _ _)]
  show pickBest [(0, (minimaxL 4 [some X, some O, some X, none, none, none, none, some X, some O] O X).2), (3, (minimaxL 4 [none, some O, some X, some X, none, none, none, some X, some O] O X).2), (4, (minimaxL 4 [none, some O, some X, none, some X, none, none, some X, some O] O X).2), (5, (minimaxL 4 [none, some O, some X, none, none, some X, none, some X, some O] O X).2), (6, (minimaxL 4 [none, some O, some X, none, none, none, some X, some X, some O] O X).2)] X = (some 6, 0)
  rw [mmv_0178, mmv_2720, mmv_2815, mmv_2763, mmv_2816]
  rfl

theorem mmv_2783 : minimaxL 6 [none, some O, some X, none, none, none, none, some X, none] O X = (some 6, 0) := by
  rw [minimaxL_succ 5 [none, some O, some X, none, none, none, none, some X, none] O X [0, 3, 4, 5, 6, 8] rfl rfl (List.cons_ne_nil _ _)]
  show pickBest [(0, (minimaxL 5 [some O, some O, some X, none, none, none, none, some X, none] X O).2), (3, (minimaxL 5 [none, some O, some X, some O, none, none, none, some X, none] X O).2), (4, (minimaxL 5 [none, some O, some X, none, some O, none, none, some X, none] X O).2), (5, (minimaxL 5 [none, some O, some X, none, none, some O, none, some X, none] X O).2), (6, (minimaxL 5 [none, some O, some X, none, none, none, some O, some X, none] X O).2), (8, (minimaxL 5 [none, some O, some X, none, none, none, none, some X, some O] X O).2)] O = (some 6, 0)
  rw [mmv_2567, mmv_2784, mmv_2798, mmv_2804, mmv_2811, mmv_2814]
  rfl

theorem mmv_2818 : minimaxL 5 [none, some O, some X, some O, none, none, none, none, some X] X O = (some 5, 1) := rfl

theorem mmv_2819 : minimaxL 5 [none, some O, some X, none, some O, none, none, none, some X] X O = (some 5, 1) := rfl

theorem mmv_2822 : minimaxL 3 [none, some O, some X, some O, some X, some O, none, none, some X] X O = (some 6, 1) := rfl

theorem mmv_2823 : minimaxL 3 [none, some O, some X, none, some X, some O, none, some O, some X] X O = (some 6, 1) := rfl

theorem mmv_2821 : minimaxL 4 [none, some O, some X, none, some X, some O, none, none, some X] O X = (some 0, 1) := by
  rw [minimaxL_succ 3 [none, some O, some X, none, some X, some O, none, none, some X] O X [0, 3, 6, 7] rfl rfl (List.cons_ne_nil _ _)]
  show pickBest [(0, (minimaxL 3 [some O, some O, some X, none, some X, some O, none, none, some X] X O).2), (3, (minimaxL 3 [none, some O, some X, some O, some X, some O, none, none, some X] X O).2), (6, (minimaxL 3 [none, some O, some X, none, some X, some O, some O, none, some X] X O).2), (7, (minimaxL 3 [none, some O, some X, none, some X, some O, none, some O, some X] X O).2)] O = (some 0, 1)
  rw [mmv_2634, mmv_2822, mmv_2744, mmv_2823]
  rfl

theorem mmv_2825 : minimaxL 3 [none, some O, some X, some O, none, some O, some X, none, some X] X O = (some 4, 1) := rfl

theorem mmv_2826 : minimaxL 3 [none, some O, some X, none, some O, some O, some X, none, some X] X O = (some 7, 1) := rfl

theorem mmv_2827 : minimaxL 3 [none, some O, some X, none, none, some O, some X, some O, some X] X O = (some 4, 1) := rfl

theorem mmv_2824 : minimaxL 4 [none, some O, some X, none, none, some O, some X, none, some X] O X = (some 0, 1) := by
  rw [minimaxL_succ 3 [none, some O, some X, none, none, some O, some X, none, some X] O X [0, 3, 4, 7] rfl rfl (List.cons_ne_nil _ _)]
  show pickBest [(0, (minimaxL 3 [some O, some O, some X, none, none, some O, some X, none, some X] X O).2), (3, (minimaxL 3 [none, some O, some X, some O, none, some O, some X, none, some X] X O).2), (4, (minimaxL 3 [none, some O, some X, none, some O, some O, some X, none, some X] X O).2), (7, (minimaxL 3 [none, some O, some X, none, none, some O, some X, some O, some X] X O).2)] O = (some 0, 1)
  rw [mmv_2639, mmv_2825, mmv_2826, mmv_2827]
  rfl

theorem mmv_2820 : minimaxL 5 [none, some O, some X, none, none, some O, none, none, some X] X O = (some 6, 1) := by
  rw [minimaxL_succ 4 [none, some O, some X, none, none, some O, none, none, some X] X O [0, 3, 4, 6, 7] rfl rfl (List.cons_ne_nil _ _)]
  show pickBest [(0, (minimaxL 4 [some X, some O, some X, none, none, some O, none, none, some X] O X).2), (3, (minimaxL 4 [none, some O, some X, some X, none, some O, none, none, some X] O X).2), (4, (minimaxL 4 [none, some O, some X, none, some X, some O, none, none, some X] O X).2), (6, (minimaxL 4 [none, some O, some X, none, none, some O, some X, none, some X] O X).2), (7, (minimaxL 4 [none, some O, some X, none, none, some O, none, some X, some X] O X).2)] X = (some 6, 1)
  rw [mmv_0121, mmv_2682, mmv_2821, mmv_2824, mmv_2809]
  rfl

theorem mmv_2828 : minimaxL 5 [none, some O, some X, none, none, none, some O, none, some X] X O = (some 5, 1) := rfl

theorem mmv_2829 : minimaxL 5 [none, some O, some X, none, none, none, none, some O, some X] X O = (some 5, 1) := rfl

theorem mmv_2817 : minimaxL 6 [none, some O, some X, none, none, none, none, none, some X] O X = (some 0, 1) := by
  rw [minimaxL_succ 5 [none, some O, some X, none, none, none, none, none, some X] O X [0, 3, 4, 5, 6, 7] rfl rfl (List.cons_ne_nil _ _)]
  show pickBest [(0, (minimaxL 5 [some O, some O, some X, none, none, none, none, none, some X] X O).2), (3, (minimaxL 5 [none, some O, some X, some O, none, none, none, none, some X] X O).2), (4, (minimaxL 5 [none, some O, some X, none, some O, none, none, none, some X] X O).2), (5, (minimaxL 5 [none, some O, some X, none, none, some O, none, none, some X] X O).2), (6, (minimaxL 5 [none, some O, some X, none, none, none, some O, none, some X] X O).2), (7, (minimaxL 5 [none, some O, some X, none, none, none, none, some O, some X] X O).2)] O = (some 0, 1)
  rw [mmv_2629, mmv_2818, mmv_2819, mmv_2820, mmv_2828, mmv_2829]
  rfl

theorem mmv_2644 : minimaxL 7 [none, some O, some X, none, none, none, none, none, none] X O = (some 8, 1) := by
  rw [minimaxL_succ 6 [none, some O, some X, none, none, none, none, none, none] X O [0, 3, 4, 5, 6, 7, 8] rfl rfl (List.cons_ne_nil _ _)]
  show pickBest [(0, (minimaxL 6 [some X, some O, some X, none, none, none, none, none, none] O X).2), (3, (minimaxL 6 [none, some O, some X, some X, none, none, none, none, none] O X).2), (4, (minimaxL 6 [none, some O, some X, none, some X, none, none, none, none] O X).2), (5, (minimaxL 6 [none, some O, some X, none, none, some X, none, none, none] O X).2), (6, (minimaxL 6 [none, some O, some X, none, none, none, some X, none, none] O X).2), (7, (minimaxL 6 [none, some O, some X, none, none, none, none, some X, none] O X).2), (8, (minimaxL 6 [none, some O, some X, none, none, none, none, none, some X] O X).2)] X = (some 8, 1)
  rw [mmv_0004, mmv_2645, mmv_2721, mmv_2748, mmv_2771, mmv_2783, mmv_2817]
  rfl

theorem mmv_2832 : minimaxL 5 [none, none, some X, some O, some X, some O, none, none, none] X O = (some 6, 1) := rfl

theorem mmv_2835 : minimaxL 3 [some X, none, some X, some O, some X, some O, some O, none, none] X O = (some 1, 1) := rfl

theorem mmv_2836 : minimaxL 3 [some X, none, some X, some O, some X, none, some O, some O, none] X O = (some 1, 1) := rfl

theorem mmv_2834 : minimaxL 4 [some X, none, some X, some O, some X, none, some O, none, none] O X = (some 1, 1) := by
  rw [minimaxL_succ 3 [some X, none, some X, some O, some X, none, some O, none, none] O X [1, 5, 7, 8] rfl rfl (List.cons_ne_nil _ _)]
  show pickBest [(1, (minimaxL 3 [some X, some O, some X, some O, some X, none, some O, none, none] X O).2), (5, (minimaxL 3 [some X, none, some X, some O, some X, some O, some O, none, none] X O).2), (7, (minimaxL 3 [some X, none, some X, some O, some X, none, some O, some O, none] X O).2), (8, (minimaxL 3 [some X, none, some X, some O, some X, none, some O, none, some O] X O).2)] O = (some 1, 1)
  rw [mmv_0008, mmv_2835, mmv_2836, mmv_0781]
  rfl

theorem mmv_2837 : minimaxL 4 [none, some X, some X, some O, some X, none, some O, none, none] O X = (some 0, -1) := rfl

theorem mmv_2838 : minimaxL 4 [none, none, some X, some O, some X, some X, some O, none, none] O X = (some 0, -1) := rfl

theorem mmv_2839 : minimaxL 4 [none, none, some X, some O, some X, none, some O, some X, none] O X = (some 0, -1) := rfl

theorem mmv_2840 : minimaxL 4 [none, none, some X, some O, some X, none, some O, none, some X] O X = (some 0, -1) := rfl

theorem mmv_2833 : minimaxL 5 [none, none, some X, some O, some X, none, some O, none, none] X O = (some 0, 1) := by
  rw [minimaxL_succ 4 [none, none, some X, some O, some X, none, some O, none, none] X O [0, 1, 5, 7, 8] rfl rfl (List.cons_ne_nil _ _)]
  show pickBest [(0, (minimaxL 4 [some X, none, some X, some O, some X, none, some O, none, none] O X).2), (1, (minimaxL 4 [none, some X, some X, some O, some X, none, some O, none, none] O X).2), (5, (minimaxL 4 [none, none, some X, some O, some X, some X, some O, none, none] O X).2), (7, (minimaxL 4 [none, none, some X, some O, some X, none, some O, some X, none] O X).2), (8, (minimaxL 4 [none, none, some X, some O, some X, none, some O, none, some X] O X).2)] X = (some 0, 1)
  rw [mmv_2834, mmv_2837, mmv_2838, mmv_2839, mmv_2840]
  rfl

theorem mmv_2841 : minimaxL 5 [none, none, some X, some O, some X, none, none, some O, none] X O = (some 6, 1) := rfl

theorem mmv_2842 : minimaxL 5 [none, none, some X, some O, some X, none, none, none, some O] X O = (some 6, 1) := rfl

theorem mmv_2831 : minimaxL 6 [none, none, some X, some O, some X, none, none, none, none] O X = (some 0, 1) := by
  rw [minimaxL_succ 5 [none, none, some X, some O, some X, none, none, none, none] O X [0, 1, 5, 6, 7, 8] rfl rfl (List.cons_ne_nil _ _)]
  show pickBest [(0, (minimaxL 5 [some O, none, some X, some O, some X, none, none, none, none] X O).2), (1, (minimaxL 5 [none, some O, some X, some O, some X, none, none, none, none] X O).2), (5, (minimaxL 5 [none, none, some X, some O, some X, some O, none, none, none] X O).2), (6, (minimaxL 5 [none, none, some X, some O, some X, none, some O, none, none] X O).2), (7, (minimaxL 5 [none, none, some X, some O, some X, none, none, some O, none] X O).2), (8, (minimaxL 5 [none, none, some X, some O, some X, none, none, none, some O] X O).2)] O = (some 0, 1)
  rw [mmv_2530, mmv_2722, mmv_2832, mmv_2833, mmv_2841, mmv_2842]
  rfl

theorem mmv_2844 : minimaxL 5 [none, none, some X, some O, some O, some X, none, none, none] X O = (some 8, 1) := rfl

theorem mmv_2845 : minimaxL 5 [none, none, some X, some O, none, some X, some O, none, none] X O = (some 8, 1) := rfl

theorem mmv_2846 : minimaxL 5 [none, none, some X, some O, none, some X, none, some O, none] X O = (some 8, 1) := rfl

theorem mmv_2850 : minimaxL 2 [none, some X, some X, some O, some X, some X, some O, none, some O] O X = (some 0, -1) := rfl

theorem mmv_2851 : minimaxL 2 [none, none, some X, some O, some X, some X, some O, some X, some O] O X = (some 0, -1) := rfl

theorem mmv_2849 : minimaxL 3 [none, none, some X, some O, some X, some X, some O, none, some O] X O = (some 7, -1) := by
  rw [minimaxL_succ 2 [none, none, some X, some O, some X, some X, some O, none, some O] X O [0, 1, 7] rfl rfl (List.cons_ne_nil _ _)]
  show pickBest [(0, (minimaxL 2 [some X, none, some X, some O, some X, some X, some O, none, some O] O X).2), (1, (minimaxL 2 [none, some X, some X, some O, some X, some X, some O, none, some O] O X).2), (7, (minimaxL 2 [none, none, some X, some O, some X, some X, some O, some X, some O] O X).2)] X = (some 7, -1)
  rw [mmv_0786, mmv_2850, mmv_2851]
  rfl

theorem mmv_2852 : minimaxL 3 [none, none, some X, some O, some X, some X, none, some O, some O] X O = (some 6, 1) := rfl

theorem mmv_2848 : minimaxL 4 [none, none, some X, some O, some X, some X, none, none, some O] O X = (some 6, -1) := by
  rw [minimaxL_succ 3 [none, none, some X, some O, some X, some X, none, none, some O] O X [0, 1, 6, 7] rfl rfl (List.cons_ne_nil _ _)]
  show pickBest [(0, (minimaxL 3 [some O, none, some X, some O, some X, some X, none, none, some O] X O).2), (1, (minimaxL 3 [none, some O, some X, some O, some X, some X, none, none, some O] X O).2), (6, (minimaxL 3 [none, none, some X, some O, some X, some X, some O, none, some O] X O).2), (7, (minimaxL 3 [none, none, some X, some O, some X, some X, none, some O, some O] X O).2)] O = (some 6, -1)
  rw [mmv_2547, mmv_2755, mmv_2849, mmv_2852]
  rfl

theorem mmv_2854 : minimaxL 3 [some O, none, some X, some O, none, some X, some X, none, some O] X O = (some 4, 1) := rfl

theorem mmv_2856 : minimaxL 2 [none, none, some X, some O, some O, some X, some X, some X, some O] O X = (some 0, -1) := rfl

theorem mmv_2855 : minimaxL 3 [none, none, some X, some O, some O, some X, some X, none, some O] X O = (some 0, 0) := by
  rw [minimaxL_succ 2 [none, none, some X, some O, some O, some X, some X, none, some O] X O [0, 1, 7] rfl rfl (List.cons_ne_nil _ _)]
  show pickBest [(0, (minimaxL 2 [some X, none, some X, some O, some O, some X, some X, none, some O] O X).2), (1, (minimaxL 2 [none, some X, some X, some O, some O, some X, some X, none, some O] O X).2), (7, (minimaxL 2 [none, none, some X, some O, some O, some X, some X, some X, some O] O X).2)] X = (some 0, 0)
  rw [mmv_0816, mmv_1988, mmv_2856]
  rfl

theorem mmv_2857 : minimaxL 3 [none, none, some X, some O, none, some X, some X, some O, some O] X O = (some 4, 1) := rfl

theorem mmv_2853 : minimaxL 4 [none, none, some X, some O, none, some X, some X, none, some O] O X = (some 4, 0) := by
  rw [minimaxL_succ 3 [none, none, some X, some O, none, some X, some X, none, some O] O X [0, 1, 4, 7] rfl rfl (List.cons_ne_nil _ _)]
  show pickBest [(0, (minimaxL 3 [some O, none, some X, some O, none, some X, some X, none, some O] X O).2), (1, (minimaxL 3 [none, some O, some X, some O, none, some X, some X, none, some O] X O).2), (4, (minimaxL 3 [none, none, some X, some O, some O, some X, some X, none, some O] X O).2), (7, (minimaxL 3 [none, none, some X, some O, none, some X, some X, some O, some O] X O).2)] O = (some 4, 0)
  rw [mmv_2854, mmv_2759, mmv_2855, mmv_2857]
  rfl

theorem mmv_2860 : minimaxL 2 [some O, none, some X, some O, some X, some X, none, some X, some O] O X = (some 6, -1) := rfl

theorem mmv_2861 : minimaxL 2 [some O, none, some X, some O, none, some X, some X, some X, some O] O X = (some 4, -1) := rfl

theorem mmv_2859 : minimaxL 3 [some O, none, some X, some O, none, some X, none, some X, some O] X O = (some 6, -1) := by
  rw [minimaxL_succ 2 [some O, none, some X, some O, none, some X, none, some X, some O] X O [1, 4, 6] rfl rfl (List.cons_ne_nil _ _)]
  show pickBest [(1, (minimaxL 2 [some O, some X, some X, some O, none, some X, none, some X, some O] O X).2), (4, (minimaxL 2 [some O, none, some X, some O, some X, some X, none, some X, some O] O X).2), (6, (minimaxL 2 [some O, none, some X, some O, none, some X, some X, some X, some O] O X).2)] X = (some 6, -1)
  rw [mmv_2020, mmv_2860, mmv_2861]
  rfl

theorem mmv_2862 : minimaxL 3 [none, none, some X, some O, some O, some X, none, some X, some O] X O = (some 0, 0) := by
  rw [minimaxL_succ 2 [none, none, some X, some O, some O, some X, none, some X, some O] X O [0, 1, 6] rfl rfl (List.cons_ne_nil _ _)]
  show pickBest [(0, (minimaxL 2 [some X, none, some X, some O, some O, some X, none, some X, some O] O X).2), (1, (minimaxL 2 [none, some X, some X, some O, some O, some X, none, some X, some O] O X).2), (6, (minimaxL 2 [none, none, some X, some O, some O, some X, some X, some X, some O] O X).2)] X = (some 0, 0)
  rw [mmv_0828, mmv_1998, mmv_2856]
  rfl

theorem mmv_2864 : minimaxL 2 [none, some X, some X, some O, none, some X, some O, some X, some O] O X = (some 0, -1) := rfl

theorem mmv_2863 : minimaxL 3 [none, none, some X, some O, none, some X, some O, some X, some O] X O = (some 0, 0) := by
  rw [minimaxL_succ 2 [none, none, some X, some O, none, some X, some O, some X, some O] X O [0, 1, 4] rfl rfl (List.cons_ne_nil _ _)]
  show pickBest [(0, (minimaxL 2 [some X, none, some X, some O, none, some X, some O, some X, some O] O X).2), (1, (minimaxL 2 [none, some X, some X, some O, none, some X, some O, some X, some O] O X).2), (4, (minimaxL 2 [none, none, some X, some O, some X, some X, some O, some X, some O] O X).2)] X = (some 0, 0)
  rw [mmv_0844, mmv_2864, mmv_2851]
  rfl

theorem mmv_2858 : minimaxL 4 [none, none, some X, some O, none, some X, none, some X, some O] O X = (some 0, -1) := by
  rw [minimaxL_succ 3 [none, none, some X, some O, none, some X, none, some X, some O] O X [0, 1, 4, 6] rfl rfl (List.cons_ne_nil _ _)]
  show pickBest [(0, (minimaxL 3 [some O, none, some X, some O, none, some X, none, some X, some O] X O).2), (1, (minimaxL 3 [none, some O, some X, some O, none, some X, none, some X, some O] X O).2), (4, (minimaxL 3 [none, none, some X, some O, some O, some X, none, some X, some O] X O).2), (6, (minimaxL 3 [none, none, some X, some O, none, some X, some O, some X, some O] X O).2)] O = (some 0, -1)
  rw [mmv_2859, mmv_2764, mmv_2862, mmv_2863]
  rfl

theorem mmv_2847 : minimaxL 5 [none, none, some X, some O, none, some X, none, none, some O] X O = (some 6, 0) := by
  rw [minimaxL_succ 4 [none, none, some X, some O, none, some X, none, none, some O] X O [0, 1, 4, 6, 7] rfl rfl (List.cons_ne_nil _ _)]
  show pickBest [(0, (minimaxL 4 [some X, none, some X, some O, none, some X, none, none, some O] O X).2), (1, (minimaxL 4 [none, some X, some X, some O, none, some X, none, none, some O] O X).2), (4, (minimaxL 4 [none, none, some X, some O, some X, some X, none, none, some O] O X).2), (6, (minimaxL 4 [none, none, some X, some O, none, some X, some X, none, some O] O X).2), (7, (minimaxL 4 [none, none, some X, some O, none, some X, none, some X, some O] O X).2)] X = (some 6, 0)
  rw [mmv_0860, mmv_2017, mmv_2848, mmv_2853, mmv_2858]
  rfl

theorem mmv_2843 : minimaxL 6 [none, none, some X, some O, none, some X, none, none, none] O X = (some 8, 0) := by
  rw [minimaxL_succ 5 [none, none, some X, some O, none, some X, none, none, none] O X [0, 1, 4, 6, 7, 8] rfl rfl (List.cons_ne_nil _ _)]
  show pickBest [(0, (minimaxL 5 [some O, none, some X, some O, none, some X, none, none, none] X O).2), (1, (minimaxL 5 [none, some O, some X, some O, none, some X, none, none, none] X O).2), (4, (minimaxL 5 [none, none, some X, some O, some O, some X, none, none, none] X O).2), (6, (minimaxL 5 [none, none, some X, some O, none, some X, some O, none, none] X O).2), (7, (minimaxL 5 [none, none, some X, some O, none, some X, none, some O, none] X O).2), (8, (minimaxL 5 [none, none, some X, some O, none, some X, none, none, some O] X O).2)] O = (some 8, 0)
  rw [mmv_2540, mmv_2749, mmv_2844, mmv_2845, mmv_2846, mmv_2847]
  rfl

theorem mmv_2868 : minimaxL 3 [some O, none, some X, some O, some O, some X, some X, none, none] X O = (some 8, 1) := rfl

theorem mmv_2869 : minimaxL 3 [none, some O, some X, some O, some O, some X, some X, none, none] X O = (some 8, 1) := rfl

theorem mmv_2870 : minimaxL 3 [none, none, some X, some O, some O, some X, some X, some O, none] X O = (some 8, 1) := rfl

theorem mmv_2867 : minimaxL 4 [none, none, some X, some O, some O, some X, some X, none, none] O X = (some 8, 0) := by
  rw [minimaxL_succ 3 [none, none, some X, some O, some O, some X, some X, none, none] O X [0, 1, 7, 8] rfl rfl (List.cons_ne_nil _ _)]
  show pickBest [(0, (minimaxL 3 [some O, none, some X, some O, some O, some X, some X, none, none] X O).2), (1, (minimaxL 3 [none, some O, some X, some O, some O, some X, some X, none, none] X O).2), (7, (minimaxL 3 [none, none, some X, some O, some O, some X, some X, some O, none] X O).2), (8, (minimaxL 3 [none, none, some X, some O, some O, some X, some X, none, some O] X O).2)] O = (some 8, 0)
  rw [mmv_2868, mmv_2869, mmv_2870, mmv_2855]
  rfl

theorem mmv_2871 : minimaxL 4 [none, none, some X, some O, some O, none, some X, some X, none] O X = (some 5, -1) := rfl

theorem mmv_2872 : minimaxL 4 [none, none, some X, some O, some O, none, some X, none, some X] O X = (some 5, -1) := rfl

theorem mmv_2866 : minimaxL 5 [none, none, some X, some O, some O, none, some X, none, none] X O = (some 5, 0) := by
  rw [minimaxL_succ 4 [none, none, some X, some O, some O, none, some X, none, none] X O [0, 1, 5, 7, 8] rfl rfl (List.cons_ne_nil _ _)]
  show pickBest [(0, (minimaxL 4 [some X, none, some X, some O, some O, none, some X, none, none] O X).2), (1, (minimaxL 4 [none, some X, some X, some O, some O, none, some X, none, none] O X).2), (5, (minimaxL 4 [none, none, some X, some O, some O, some X, some X, none, none] O X).2), (7, (minimaxL 4 [none, none, some X, some O, some O, none, some X, some X, none] O X).2), (8, (minimaxL 4 [none, none, some X, some O, some O, none, some X, none, some X] O X).2)] X = (some 5, 0)
  rw [mmv_0866, mmv_2030, mmv_2867, mmv_2871, mmv_2872]
  rfl

theorem mmv_2873 : minimaxL 5 [none, none, some X, some O, none, some O, some X, none, none] X O = (some 4, 1) := rfl

theorem mmv_2874 : minimaxL 5 [none, none, some X, some O, none, none, some X, some O, none] X O = (some 4, 1) := rfl

theorem mmv_2875 : minimaxL 5 [none, none, some X, some O, none, none, some X, none, some O] X O = (some 4, 1) := rfl

theorem mmv_2865 : minimaxL 6 [none, none, some X, some O, none, none, some X, none, none] O X = (some 4, 0) := by
  rw [minimaxL_succ 5 [none, none, some X, some O, none, none, some X, none, none] O X [0, 1, 4, 5, 7, 8] rfl rfl (List.cons_ne_nil _ _)]
  show pickBest [(0, (minimaxL 5 [some O, none, some X, some O, none, none, some X, none, none] X O).2), (1, (minimaxL 5 [none, some O, some X, some O, none, none, some X, none, none] X O).2), (4, (minimaxL 5 [none, none, some X, some O, some O, none, some X, none, none] X O).2), (5, (minimaxL 5 [none, none, some X, some O, none, some O, some X, none, none] X O).2), (7, (minimaxL 5 [none, none, some X, some O, none, none, some X, some O, none] X O).2), (8, (minimaxL 5 [none, none, some X, some O, none, none, some X, none, some O] X O).2)] O = (some 4, 0)
  rw [mmv_2554, mmv_2772, mmv_2866, mmv_2873, mmv_2874, mmv_2875]
  rfl

theorem mmv_2879 : minimaxL 3 [some O, none, some X, some O, some O, some X, none, some X, none] X O = (some 8, 1) := rfl

theorem mmv_2880 : minimaxL 3 [none, none, some X, some O, some O, some X, some O, some X, none] X O = (some 8, 1) := rfl

theorem mmv_2878 : minimaxL 4 [none, none, some X, some O, some O, some X, none, some X, none] O X = (some 8, 0) := by
  rw [minimaxL_succ 3 [none, none, some X, some O, some O, some X, none, some X, none] O X [0, 1, 6, 8] rfl rfl (List.cons_ne_nil _ _)]
  show pickBest [(0, (minimaxL 3 [some O, none, some X, some O, some O, some X, none, some X, none] X O).2), (1, (minimaxL 3 [none, some O, some X, some O, some O, some X, none, some X, none] X O).2), (6, (minimaxL 3 [none, none, some X, some O, some O, some X, some O, some X, none] X O).2), (8, (minimaxL 3 [none, none, some X, some O, some O, some X, none, some X, some O] X O).2)] O = (some 8, 0)
  rw [mmv_2879, mmv_2789, mmv_2880, mmv_2862]
  rfl

theorem mmv_2881 : minimaxL 4 [none, none, some X, some O, some O, none, none, some X, some X] O X = (some 5, -1) := rfl

theorem mmv_2877 : minimaxL 5 [none, none, some X, some O, some O, none, none, some X, none] X O = (some 5, 0) := by
  rw [minimaxL_succ 4 [none, none, some X, some O, some O, none, none, some X, none] X O [0, 1, 5, 6, 8] rfl rfl (List.cons_ne_nil _ _)]
  show pickBest [(0, (minimaxL 4 [some X, none, some X, some O, some O, none, none, some X, none] O X).2), (1, (minimaxL 4 [none, some X, some X, some O, some O, none, none, some X, none] O X).2), (5, (minimaxL 4 [none, none, some X, some O, some O, some X, none, some X, none] O X).2), (6, (minimaxL 4 [none, none, some X, some O, some O, none, some X, some X, none] O X).2), (8, (minimaxL 4 [none, none, some X, some O, some O, none, none, some X, some X] O X).2)] X = (some 5, 0)
  rw [mmv_0909, mmv_2062, mmv_2878, mmv_2871, mmv_2881]
  rfl

theorem mmv_2883 : minimaxL 4 [none, some X, some X, some O, none, some O, none, some X, none] O X = (some 4, -1) := rfl

theorem mmv_2885 : minimaxL 3 [none, none, some X, some O, some X, some O, some O, some X, none] X O = (some 1, 1) := rfl

theorem mmv_2886 : minimaxL 3 [none, none, some X, some O, some X, some O, none, some X, some O] X O = (some 6, 1) := rfl

theorem mmv_2884 : minimaxL 4 [none, none, some X, some O, some X, some O, none, some X, none] O X = (some 0, 1) := by
  rw [minimaxL_succ 3 [none, none, some X, some O, some X, some O, none, some X, none] O X [0, 1, 6, 8] rfl rfl (List.cons_ne_nil _ _)]
  show pickBest [(0, (minimaxL 3 [some O, none, some X, some O, some X, some O, none, some X, none] X O).2), (1, (minimaxL 3 [none, some O, some X, some O, some X, some O, none, some X, none] X O).2), (6, (minimaxL 3 [none, none, some X, some O, some X, some O, some O, some X, none] X O).2), (8, (minimaxL 3 [none, none, some X, some O, some X, some O, none, some X, some O] X O).2)] O = (some 0, 1)
  rw [mmv_2610, mmv_2786, mmv_2885, mmv_2886]
  rfl

theorem mmv_2887 : minimaxL 4 [none, none, some X, some O, none, some O, some X, some X, none] O X = (some 4, -1) := rfl

theorem mmv_2888 : minimaxL 4 [none, none, some X, some O, none, some O, none, some X, some X] O X = (some 4, -1) := rfl

theorem mmv_2882 : minimaxL 5 [none, none, some X, some O, none, some O, none, some X, none] X O = (some 4, 1) := by
  rw [minimaxL_succ 4 [none, none, some X, some O, none, some O, none, some X, none] X O [0, 1, 4, 6, 8] rfl rfl (List.cons_ne_nil _ _)]
  show pickBest [(0, (minimaxL 4 [some X, none, some X, some O, none, some O, none, some X, none] O X).2), (1, (minimaxL 4 [none, some X, some X, some O, none, some O, none, some X, none] O X).2), (4, (minimaxL 4 [none, none, some X, some O, some X, some O, none, some X, none] O X).2), (6, (minimaxL 4 [none, none, some X, some O, none, some O, some X, some X, none] O X).2), (8, (minimaxL 4 [none, none, some X, some O, none, some O, none, some X, some X] O X).2)] X = (some 4, 1)
  rw [mmv_0913, mmv_2883, mmv_2884, mmv_2887, mmv_2888]
  rfl

theorem mmv_2890 : minimaxL 4 [none, some X, some X, some O, none, none, some O, some X, none] O X = (some 0, -1) := rfl

theorem mmv_2891 : minimaxL 4 [none, none, some X, some O, none, some X, some O, some X, none] O X = (some 0, -1) := rfl

theorem mmv_2892 : minimaxL 4 [none, none, some X, some O, none, none, some O, some X, some X] O X = (some 0, -1) := rfl

theorem mmv_2889 : minimaxL 5 [none, none, some X, some O, none, none, some O, some X, none] X O = (some 0, 1) := by
  rw [minimaxL_succ 4 [none, none, some X, some O, none, none, some O, some X, none] X O [0, 1, 4, 5, 8] rfl rfl (List.cons_ne_nil _ _)]
  show pickBest [(0, (minimaxL 4 [some X, none, some X, some O, none, none, some O, some X, none] O X).2), (1, (minimaxL 4 [none, some X, some X, some O, none, none, some O, some X, none] O X).2), (4, (minimaxL 4 [none, none, some X, some O, some X, none, some O, some X, none] O X).2), (5, (minimaxL 4 [none, none, some X, some O, none, some X, some O, some X, none] O X).2), (8, (minimaxL 4 [none, none, some X, some O, none, none, some O, some X, some X] O X).2)] X = (some 0, 1)
  rw [mmv_0922, mmv_2890, mmv_2839, mmv_2891, mmv_2892]
  rfl

theorem mmv_2895 : minimaxL 3 [some O, some X, some X, some O, none, none, none, some X, some O] X O = (some 4, 1) := rfl

theorem mmv_2896 : minimaxL 3 [none, some X, some X, some O, some O, none, none, some X, some O] X O = (some 0, 1) := rfl

theorem mmv_2897 : minimaxL 3 [none, some X, some X, some O, none, some O, none, some X, some O] X O = (some 0, 1) := rfl

theorem mmv_2898 : minimaxL 3 [none, some X, some X, some O, none, none, some O, some X, some O] X O = (some 0, 1) := rfl

theorem mmv_2894 : minimaxL 4 [none, some X, some X, some O, none, none, none, some X, some O] O X = (some 0, 1) := by
  rw [minimaxL_succ 3 [none, some X, some X, some O, none, none, none, some X, some O] O X [0, 4, 5, 6] rfl rfl (List.cons_ne_nil _ _)]
  show pickBest [(0, (minimaxL 3 [some O, some X, some X, some O, none, none, none, some X, some O] X O).2), (4, (minimaxL 3 [none, some X, some X, some O, some O, none, none, some X, some O] X O).2), (5, (minimaxL 3 [none, some X, some X, some O, none, some O, none, some X, some O] X O).2), (6, (minimaxL 3 [none, some X, some X, some O, none, none, some O, some X, some O] X O).2)] O = (some 0, 1)
  rw [mmv_2895, mmv_2896, mmv_2897, mmv_2898]
  rfl

theorem mmv_2900 : minimaxL 3 [none, none, some X, some O, some X, none, some O, some X, some O] X O = (some 1, 1) := rfl

theorem mmv_2899 : minimaxL 4 [none, none, some X, some O, some X, none, none, some X, some O] O X = (some 0, 1) := by
  rw [minimaxL_succ 3 [none, none, some X, some O, some X, none, none, some X, some O] O X [0, 1, 5, 6] rfl rfl (List.cons_ne_nil _ _)]
  show pickBest [(0, (minimaxL 3 [some O, none, some X, some O, some X, none, none, some X, some O] X O).2), (1, (minimaxL 3 [none, some O, some X, some O, some X, none, none, some X, some O] X O).2), (5, (minimaxL 3 [none, none, some X, some O, some X, some O, none, some X, some O] X O).2), (6, (minimaxL 3 [none, none, some X, some O, some X, none, some O, some X, some O] X O).2)] O = (some 0, 1)
  rw [mmv_2625, mmv_2787, mmv_2886, mmv_2900]
  rfl

theorem mmv_2902 : minimaxL 3 [none, none, some X, some O, some O, none, some X, some X, some O] X O = (some 5, -1) := by
  rw [minimaxL_succ 2 [none, none, some X, some O, some O, none, some X, some X, some O] X O [0, 1, 5] rfl rfl (List.cons_ne_nil _ _)]
  show pickBest [(0, (minimaxL 2 [some X, none, some X, some O, some O, none, some X, some X, some O] O X).2), (1, (minimaxL 2 [none, some X, some X, some O, some O, none, some X, some X, some O] O X).2), (5, (minimaxL 2 [none, none, some X, some O, some O, some X, some X, some X, some O] O X).2)] X = (some 5, -1)
  rw [mmv_0901, mmv_2058, mmv_2856]
  rfl

theorem mmv_2903 : minimaxL 3 [none, none, some X, some O, none, some O, some X, some X, some O] X O = (some 4, 1) := rfl

theorem mmv_2901 : minimaxL 4 [none, none, some X, some O, none, none, some X, some X, some O] O X = (some 4, -1) := by
  rw [minimaxL_succ 3 [none, none, some X, some O, none, none, some X, some X, some O] O X [0, 1, 4, 5] rfl rfl (List.cons_ne_nil _ _)]
  show pickBest [(0, (minimaxL 3 [some O, none, some X, some O, none, none, some X, some X, some O] X O).2), (1, (minimaxL 3 [none, some O, some X, some O, none, none, some X, some X, some O] X O).2), (4, (minimaxL 3 [none, none, some X, some O, some O, none, some X, some X, some O] X O).2), (5, (minimaxL 3 [none, none, some X, some O, none, some O, some X, some X, some O] X O).2)] O = (some 4, -1)
  rw [mmv_2600, mmv_2793, mmv_2902, mmv_2903]
  rfl

theorem mmv_2893 : minimaxL 5 [none, none, some X, some O, none, none, none, some X, some O] X O = (some 4, 1) := by
  rw [minimaxL_succ 4 [none, none, some X, some O, none, none, none, some X, some O] X O [0, 1, 4, 5, 6] rfl rfl (List.cons_ne_nil _ _)]
  show pickBest [(0, (minimaxL 4 [some X, none, some X, some O, none, none, none, some X, some O] O X).2), (1, (minimaxL 4 [none, some X, some X, some O, none, none, none, some X, some O] O X).2), (4, (minimaxL 4 [none, none, some X, some O, some X, none, none, some X, some O] O X).2), (5, (minimaxL 4 [none, none, some X, some O, none, some X, none, some X, some O] O X).2), (6, (minimaxL 4 [none, none, some X, some O, none, none, some X, some X, some O] O X).2)] X = (some 4, 1)
  rw [mmv_0936, mmv_2894, mmv_2899, mmv_2858, mmv_2901]
  rfl

theorem mmv_2876 : minimaxL 6 [none, none, some X, some O, none, none, none, some X, none] O X = (some 4, 0) := by
  rw [minimaxL_succ 5 [none, none, some X, some O, none, none, none, some X, none] O X [0, 1, 4, 5, 6, 8] rfl rfl (List.cons_ne_nil _ _)]
  show pickBest [(0, (minimaxL 5 [some O, none, some X, some O, none, none, none, some X, none] X O).2), (1, (minimaxL 5 [none, some O, some X, some O, none, none, none, some X, none] X O).2), (4, (minimaxL 5 [none, none, some X, some O, some O, none, none, some X, none] X O).2), (5, (minimaxL 5 [none, none, some X, some O, none, some O, none, some X, none] X O).2), (6, (minimaxL 5 [none, none, some X, some O, none, none, some O, some X, none] X O).2), (8, (minimaxL 5 [none, none, some X, some O, none, none, none, some X, some O] X O).2)] O = (some 4, 0)
  rw [mmv_2594, mmv_2784, mmv_2877, mmv_2882, mmv_2889, mmv_2893]
  rfl

theorem mmv_2905 : minimaxL 5 [none, none, some X, some O, some O, none, none, none, some X] X O = (some 5, 1) := rfl

theorem mmv_2907 : minimaxL 4 [some X, none, some X, some O, none, some O, none, none, some X] O X = (some 4, -1) := rfl

theorem mmv_2909 : minimaxL 3 [none, none, some X, some O, some X, some O, some O, none, some X] X O = (some 0, 1) := rfl

theorem mmv_2910 : minimaxL 3 [none, none, some X, some O, some X, some O, none, some O, some X] X O = (some 6, 1) := rfl

theorem mmv_2908 : minimaxL 4 [none, none, some X, some O, some X, some O, none, none, some X] O X = (some 0, 1) := by
  rw [minimaxL_succ 3 [none, none, some X, some O, some X, some O, none, none, some X] O X [0, 1, 6, 7] rfl rfl (List.cons_ne_nil _ _)]
  show pickBest [(0, (minimaxL 3 [some O, none, some X, some O, some X, some O, none, none, some X] X O).2), (1, (minimaxL 3 [none, some O, some X, some O, some X, some O, none, none, some X] X O).2), (6, (minimaxL 3 [none, none, some X, some O, some X, some O, some O, none, some X] X O).2), (7, (minimaxL 3 [none, none, some X, some O, some X, some O, none, some O, some X] X O).2)] O = (some 0, 1)
  rw [mmv_2635, mmv_2822, mmv_2909, mmv_2910]
  rfl

theorem mmv_2911 : minimaxL 4 [none, none, some X, some O, none, some O, some X, none, some X] O X = (some 4, -1) := rfl

theorem mmv_2906 : minimaxL 5 [none, none, some X, some O, none, some O, none, none, some X] X O = (some 4, 1) := by
  rw [minimaxL_succ 4 [none, none, some X, some O, none, some O, none, none, some X] X O [0, 1, 4, 6, 7] rfl rfl (List.cons_ne_nil _ _)]
  show pickBest [(0, (minimaxL 4 [some X, none, some X, some O, none, some O, none, none, some X] O X).2), (1, (minimaxL 4 [none, some X, some X, some O, none, some O, none, none, some X] O X).2), (4, (minimaxL 4 [none, none, some X, some O, some X, some O, none, none, some X] O X).2), (6, (minimaxL 4 [none, none, some X, some O, none, some O, some X, none, some X] O X).2), (7, (minimaxL 4 [none, none, some X, some O, none, some O, none, some X, some X] O X).2)] X = (some 4, 1)
  rw [mmv_2907, mmv_2072, mmv_2908, mmv_2911, mmv_2888]
  rfl

theorem mmv_2912 : minimaxL 5 [none, none, some X, some O, none, none, some O, none, some X] X O = (some 5, 1) := rfl

theorem mmv_2913 : minimaxL 5 [none, none, some X, some O, none, none, none, some O, some X] X O = (some 5, 1) := rfl

theorem mmv_2904 : minimaxL 6 [none, none, some X, some O, none, none, none, none, some X] O X = (some 0, 1) := by
  rw [minimaxL_succ 5 [none, none, some X, some O, none, none, none, none, some X] O X [0, 1, 4, 5, 6, 7] rfl rfl (List.cons_ne_nil _ _)]
  show pickBest [(0, (minimaxL 5 [some O, none, some X, some O, none, none, none, none, some X] X O).2), (1, (minimaxL 5 [none, some O, some X, some O, none, none, none, none, some X] X O).2), (4, (minimaxL 5 [none, none, some X, some O, some O, none, none, none, some X] X O).2), (5, (minimaxL 5 [none, none, some X, some O, none, some O, none, none, some X] X O).2), (6, (minimaxL 5 [none, none, some X, some O, none, none, some O, none, some X] X O).2), (7, (minimaxL 5 [none, none, some X, some O, none, none, none, some O, some X] X O).2)] O = (some 0, 1)
  rw [mmv_2630, mmv_2818, mmv_2905, mmv_2906, mmv_2912, mmv_2913]
  rfl

theorem mmv_2830 : minimaxL 7 [none, none, some X, some O, none, none, none, none, none] X O = (some 8, 1) := by
  rw [minimaxL_succ 6 [none, none, some X, some O, none, none, none, none, none] X O [0, 1, 4, 5, 6, 7, 8] rfl rfl (List.cons_ne_nil _ _)]
  show pickBest [(0, (minimaxL 6 [some X, none, some X, some O, none, none, none, none, none] O X).2), (1, (minimaxL 6 [none, some X, some X, some O, none, none, none, none, none] O X).2), (4, (minimaxL 6 [none, none, some X, some O, some X, none, none, none, none] O X).2), (5, (minimaxL 6 [none, none, some X, some O, none, some X, none, none, none] O X).2), (6, (minimaxL 6 [none, none, some X, some O, none, none, some X, none, none] O X).2), (7, (minimaxL 6 [none, none, some X, some O, none, none, none, some X, none] O X).2), (8, (minimaxL 6 [none, none, some X, some O, none, none, none, none, some X] O X).2)] X = (some 8, 1)
  rw [mmv_0764, mmv_1943, mmv_2831, mmv_2843, mmv_2865, mmv_2876, mmv_2904]
  rfl

theorem mmv_2918 : minimaxL 3 [some X, none, some X, some X, some O, some O, none, some O, none] X O = (some 1, 1) := rfl

theorem mmv_2919 : minimaxL 3 [some X, none, some X, some X, some O, some O, none, none, some O] X O = (some 1, 1) := rfl

theorem mmv_2917 : minimaxL 4 [some X, none, some X, some X, some O, some O, none, none, none] O X = (some 1, 1) := by
  rw [minimaxL_succ 3 [some X, none, some X, some X, some O, some O, none, none, none] O X [1, 6, 7, 8] rfl rfl (List.cons_ne_nil _ _)]
  show pickBest [(1, (minimaxL 3 [some X, some O, some X, some X, some O, some O, none, none, none] X O).2), (6, (minimaxL 3 [some X, none, some X, some X, some O, some O, some O, none, none] X O).2), (7, (minimaxL 3 [some X, none, some X, some X, some O, some O, none, some O, none] X O).2), (8, (minimaxL 3 [some X, none, some X, some X, some O, some O, none, none, some O] X O).2)] O = (some 1, 1)
  rw [mmv_0091, mmv_0962, mmv_2918, mmv_2919]
  rfl

theorem mmv_2921 : minimaxL 3 [none, none, some X, some X, some O, some O, some X, some O, none] X O = (some 0, 1) := rfl

theorem mmv_2922 : minimaxL 3 [none, none, some X, some X, some O, some O, some X, none, some O] X O = (some 0, 1) := rfl

theorem mmv_2920 : minimaxL 4 [none, none, some X, some X, some O, some O, some X, none, none] O X = (some 0, 0) := by
  rw [minimaxL_succ 3 [none, none, some X, some X, some O, some O, some X, none, none] O X [0, 1, 7, 8] rfl rfl (List.cons_ne_nil _ _)]
  show pickBest [(0, (minimaxL 3 [some O, none, some X, some X, some O, some O, some X, none, none] X O).2), (1, (minimaxL 3 [none, some O, some X, some X, some O, some O, some X, none, none] X O).2), (7, (minimaxL 3 [none, none, some X, some X, some O, some O, some X, some O, none] X O).2), (8, (minimaxL 3 [none, none, some X, some X, some O, some O, some X, none, some O] X O).2)] O = (some 0, 0)
  rw [mmv_2478, mmv_2673, mmv_2921, mmv_2922]
  rfl

theorem mmv_2925 : minimaxL 2 [none, none, some X, some X, some O, some O, some O, some X, some X] O X = (some 0, 0) := by
  rw [minimaxL_succ 1 [none, none, some X, some X, some O, some O, some O, some X, some X] O X [0, 1] rfl rfl (List.cons_ne_nil _ _)]
  show pickBest [(0, (minimaxL 1 [some O, none, some X, some X, some O, some O, some O, some X, some X] X O).2), (1, (minimaxL 1 [none, some O, some X, some X, some O, some O, some O, some X, some X] X O).2)] O = (some 0, 0)
  rw [mmv_2465, mmv_2654]
  rfl

theorem mmv_2924 : minimaxL 3 [none, none, some X, some X, some O, some O, some O, some X, none] X O = (some 8, 0) := by
  rw [minimaxL_succ 2 [none, none, some X, some X, some O, some O, some O, some X, none] X O [0, 1, 8] rfl rfl (List.cons_ne_nil _ _)]
  show pickBest [(0, (minimaxL 2 [some X, none, some X, some X, some O, some O, some O, some X, none] O X).2), (1, (minimaxL 2 [none, some X, some X, some X, some O, some O, some O, some X, none] O X).2), (8, (minimaxL 2 [none, none, some X, some X, some O, some O, some O, some X, some X] O X).2)] X = (some 8, 0)
  rw [mmv_1015, mmv_2115, mmv_2925]
  rfl

theorem mmv_2927 : minimaxL 2 [some X, none, some X, some X, some O, some O, none, some X, some O] O X = (some 1, 1) := by
  rw [minimaxL_succ 1 [some X, none, some X, some X, some O, some O, none, some X, some O] O X [1, 6] rfl rfl (List.cons_ne_nil _ _)]
  show pickBest [(1, (minimaxL 1 [some X, some O, some X, some X, some O, some O, none, some X, some O] X O).2), (6, (minimaxL 1 [some X, none, some X, some X, some O, some O, some O, some X, some O] X O).2)] O = (some 1, 1)
  rw [mmv_0072, mmv_1016]
  rfl

theorem mmv_2928 : minimaxL 2 [none, none, some X, some X, some O, some O, some X, some X, some O] O X = (some 0, -1) := rfl

theorem mmv_2926 : minimaxL 3 [none, none, some X, some X, some O, some O, none, some X, some O] X O = (some 0, 1) := by
  rw [minimaxL_succ 2 [none, none, some X, some X, some O, some O, none, some X, some O] X O [0, 1, 6] rfl rfl (List.cons_ne_nil _ _)]
  show pickBest [(0, (minimaxL 2 [some X, none, some X, some X, some O, some O, none, some X, some O] O X).2), (1, (minimaxL 2 [none, some X, some X, some X, some O, some O, none, some X, some O] O X).2), (6, (minimaxL 2 [none, none, some X, some X, some O, some O, some X, some X, some O] O X).2)] X = (some 0, 1)
  rw [mmv_2927, mmv_2120, mmv_2928]
  rfl

theorem mmv_2923 : minimaxL 4 [none, none, some X, some X, some O, some O, none, some X, none] O X = (some 0, 0) := by
  rw [minimaxL_succ 3 [none, none, some X, some X, some O, some O, none, some X, none] O X [0, 1, 6, 8] rfl rfl (List.cons_ne_nil _ _)]
  show pickBest [(0, (minimaxL 3 [some O, none, some X, some X, some O, some O, none, some X, none] X O).2), (1, (minimaxL 3 [none, some O, some X, some X, some O, some O, none, some X, none] X O).2), (6, (minimaxL 3 [none, none, some X, some X, some O, some O, some O, some X, none] X O).2), (8, (minimaxL 3 [none, none, some X, some X, some O, some O, none, some X, some O] X O).2)] O = (some 0, 0)
  rw [mmv_2483, mmv_2650, mmv_2924, mmv_2926]
  rfl

theorem mmv_2930 : minimaxL 3 [none, none, some X, some X, some O, some O, some O, none, some X] X O = (some 7, 0) := by
  rw [minimaxL_succ 2 [none, none, some X, some X, some O, some O, some O, none, some X] X O [0, 1, 7] rfl rfl (List.cons_ne_nil _ _)]
  show pickBest [(0, (minimaxL 2 [some X, none, some X, some X, some O, some O, some O, none, some X] O X).2), (1, (minimaxL 2 [none, some X, some X, some X, some O, some O, some O, none, some X] O X).2), (7, (minimaxL 2 [none, none, some X, some X, some O, some O, some O, some X, some X] O X).2)] X = (some 7, 0)
  rw [mmv_1052, mmv_2124, mmv_2925]
  rfl

theorem mmv_2932 : minimaxL 2 [some X, none, some X, some X, some O, some O, none, some O, some X] O X = (some 1, -1) := rfl

theorem mmv_2933 : minimaxL 2 [none, none, some X, some X, some O, some O, some X, some O, some X] O X = (some 1, -1) := rfl

theorem mmv_2931 : minimaxL 3 [none, none, some X, some X, some O, some O, none, some O, some X] X O = (some 1, 0) := by
  rw [minimaxL_succ 2 [none, none, some X, some X, some O, some O, none, some O, some X] X O [0, 1, 6] rfl rfl (List.cons_ne_nil _ _)]
  show pickBest [(0, (minimaxL 2 [some X, none, some X, some X, some O, some O, none, some O, some X] O X).2), (1, (minimaxL 2 [none, some X, some X, some X, some O, some O, none, some O, some X] O X).2), (6, (minimaxL 2 [none, none, some X, some X, some O, some O, some X, some O, some X] O X).2)] X = (some 1, 0)
  rw [mmv_2932, mmv_2129, mmv_2933]
  rfl

theorem mmv_2929 : minimaxL 4 [none, none, some X, some X, some O, some O, none, none, some X] O X = (some 0, 0) := by
  rw [minimaxL_succ 3 [none, none, some X, some X, some O, some O, none, none, some X] O X [0, 1, 6, 7] rfl rfl (List.cons_ne_nil _ _)]
  show pickBest [(0, (minimaxL 3 [some O, none, some X, some X, some O, some O, none, none, some X] X O).2), (1, (minimaxL 3 [none, some O, some X, some X, some O, some O, none, none, some X] X O).2), (6, (minimaxL 3 [none, none, some X, some X, some O, some O, some O, none, some X] X O).2), (7, (minimaxL 3 [none, none, some X, some X, some O, some O, none, some O, some X] X O).2)] O = (some 0, 0)
  rw [mmv_2461, mmv_2683, mmv_2930, mmv_2931]
  rfl

theorem mmv_2916 : minimaxL 5 [none, none, some X, some X, some O, some O, none, none, none] X O = (some 0, 1) := by
  rw [minimaxL_succ 4 [none, none, some X, some X, some O, some O, none, none, none] X O [0, 1, 6, 7, 8] rfl rfl (List.cons_ne_nil _ _)]
  show pickBest [(0, (minimaxL 4 [some X, none, some X, some X, some O, some O, none, none, none] O X).2), (1, (minimaxL 4 [none, some X, some X, some X, some O, some O, none, none, none] O X).2), (6, (minimaxL 4 [none, none, some X, some X, some O, some O, some X, none, none] O X).2), (7, (minimaxL 4 [none, none, some X, some X, some O, some O, none, some X, none] O X).2), (8, (minimaxL 4 [none, none, some X, some X, some O, some O, none, none, some X] O X).2)] X = (some 0, 1)
  rw [mmv_2917, mmv_2103, mmv_2920, mmv_2923, mmv_2929]
  rfl

theorem mmv_2936 : minimaxL 3 [none, none, some X, some X, some O, some X, some O, some O, none] X O = (some 8, 1) := rfl

theorem mmv_2938 : minimaxL 2 [none, some X, some X, some X, some O, some X, some O, none, some O] O X = (some 0, -1) := rfl

theorem mmv_2939 : minimaxL 2 [none, none, some X, some X, some O, some X, some O, some X, some O] O X = (some 0, -1) := rfl

theorem mmv_2937 : minimaxL 3 [none, none, some X, some X, some O, some X, some O, none, some O] X O = (some 7, -1) := by
  rw [minimaxL_succ 2 [none, none, some X, some X, some O, some X, some O, none, some O] X O [0, 1, 7] rfl rfl (List.cons_ne_nil _ _)]
  show pickBest [(0, (minimaxL 2 [some X, none, some X, some X, some O, some X, some O, none, some O] O X).2), (1, (minimaxL 2 [none, some X, some X, some X, some O, some X, some O, none, some O] O X).2), (7, (minimaxL 2 [none, none, some X, some X, some O, some X, some O, some X, some O] O X).2)] X = (some 7, -1)
  rw [mmv_0994, mmv_2938, mmv_2939]
  rfl

theorem mmv_2935 : minimaxL 4 [none, none, some X, some X, some O, some X, some O, none, none] O X = (some 8, -1) := by
  rw [minimaxL_succ 3 [none, none, some X, some X, some O, some X, some O, none, none] O X [0, 1, 7, 8] rfl rfl (List.cons_ne_nil _ _)]
  show pickBest [(0, (minimaxL 3 [some O, none, some X, some X, some O, some X, some O, none, none] X O).2), (1, (minimaxL 3 [none, some O, some X, some X, some O, some X, some O, none, none] X O).2), (7, (minimaxL 3 [none, none, some X, some X, some O, some X, some O, some O, none] X O).2), (8, (minimaxL 3 [none, none, some X, some X, some O, some X, some O, none, some O] X O).2)] O = (some 8, -1)
  rw [mmv_2499, mmv_2695, mmv_2936, mmv_2937]
  rfl

theorem mmv_2941 : minimaxL 3 [none, none, some X, some X, some O, none, some O, some X, some O] X O = (some 0, 0) := by
  rw [minimaxL_succ 2 [none, none, some X, some X, some O, none, some O, some X, some O] X O [0, 1, 5] rfl rfl (List.cons_ne_nil _ _)]
  show pickBest [(0, (minimaxL 2 [some X, none, some X, some X, some O, none, some O, some X, some O] O X).2), (1, (minimaxL 2 [none, some X, some X, some X, some O, none, some O, some X, some O] O X).2), (5, (minimaxL 2 [none, none, some X, some X, some O, some X, some O, some X, some O] O X).2)] X = (some 0, 0)
  rw [mmv_1040, mmv_2339, mmv_2939]
  rfl

theorem mmv_2940 : minimaxL 4 [none, none, some X, some X, some O, none, some O, some X, none] O X = (some 0, 0) := by
  rw [minimaxL_succ 3 [none, none, some X, some X, some O, none, some O, some X, none] O X [0, 1, 5, 8] rfl rfl (List.cons_ne_nil _ _)]
  show pickBest [(0, (minimaxL 3 [some O, none, some X, some X, some O, none, some O, some X, none] X O).2), (1, (minimaxL 3 [none, some O, some X, some X, some O, none, some O, some X, none] X O).2), (5, (minimaxL 3 [none, none, some X, some X, some O, some O, some O, some X, none] X O).2), (8, (minimaxL 3 [none, none, some X, some X, some O, none, some O, some X, some O] X O).2)] O = (some 0, 0)
  rw [mmv_2503, mmv_2655, mmv_2924, mmv_2941]
  rfl

theorem mmv_2943 : minimaxL 3 [none, none, some X, some X, some O, none, some O, some O, some X] X O = (some 5, 1) := rfl

theorem mmv_2942 : minimaxL 4 [none, none, some X, some X, some O, none, some O, none, some X] O X = (some 5, 0) := by
  rw [minimaxL_succ 3 [none, none, some X, some X, some O, none, some O, none, some X] O X [0, 1, 5, 7] rfl rfl (List.cons_ne_nil _ _)]
  show pickBest [(0, (minimaxL 3 [some O, none, some X, some X, some O, none, some O, none, some X] X O).2), (1, (minimaxL 3 [none, some O, some X, some X, some O, none, some O, none, some X] X O).2), (5, (minimaxL 3 [none, none, some X, some X, some O, some O, some O, none, some X] X O).2), (7, (minimaxL 3 [none, none, some X, some X, some O, none, some O, some O, some X] X O).2)] O = (some 5, 0)
  rw [mmv_2466, mmv_2703, mmv_2930, mmv_2943]
  rfl

theorem mmv_2934 : minimaxL 5 [none, none, some X, some X, some O, none, some O, none, none] X O = (some 8, 0) := by
  rw [minimaxL_succ 4 [none, none, some X, some X, some O, none, some O, none, none] X O [0, 1, 5, 7, 8] rfl rfl (List.cons_ne_nil _ _)]
  show pickBest [(0, (minimaxL 4 [some X, none, some X, some X, some O, none, some O, none, none] O X).2), (1, (minimaxL 4 [none, some X, some X, some X, some O, none, some O, none, none] O X).2), (5, (minimaxL 4 [none, none, some X, some X, some O, some X, some O, none, none] O X).2), (7, (minimaxL 4 [none, none, some X, some X, some O, none, some O, some X, none] O X).2), (8, (minimaxL 4 [none, none, some X, some X, some O, none, some O, none, some X] O X).2)] X = (some 8, 0)
  rw [mmv_0961, mmv_2132, mmv_2935, mmv_2940, mmv_2942]
  rfl

theorem mmv_2945 : minimaxL 4 [some X, none, some X, some X, some O, none, none, some O, none] O X = (some 1, -1) := rfl

theorem mmv_2946 : minimaxL 4 [none, none, some X, some X, some O, some X, none, some O, none] O X = (some 1, -1) := rfl

theorem mmv_2947 : minimaxL 4 [none, none, some X, some X, some O, none, some X, some O, none] O X = (some 1, -1) := rfl

theorem mmv_2948 : minimaxL 4 [none, none, some X, some X, some O, none, none, some O, some X] O X = (some 1, -1) := rfl

theorem mmv_2944 : minimaxL 5 [none, none, some X, some X, some O, none, none, some O, none] X O = (some 1, 0) := by
  rw [minimaxL_succ 4 [none, none, some X, some X, some O, none, none, some O, none] X O [0, 1, 5, 6, 8] rfl rfl (List.cons_ne_nil _ _)]
  show pickBest [(0, (minimaxL 4 [some X, none, some X, some X, some O, none, none, some O, none] O X).2), (1, (minimaxL 4 [none, some X, some X, some X, some O, none, none, some O, none] O X).2), (5, (minimaxL 4 [none, none, some X, some X, some O, some X, none, some O, none] O X).2), (6, (minimaxL 4 [none, none, some X, some X, some O, none, some X, some O, none] O X).2), (8, (minimaxL 4 [none, none, some X, some X, some O, none, none, some O, some X] O X).2)] X = (some 1, 0)
  rw [mmv_2945, mmv_2142, mmv_2946, mmv_2947, mmv_2948]
  rfl

theorem mmv_2951 : minimaxL 3 [some X, none, some X, some X, some O, none, none, some O, some O] X O = (some 1, 1) := rfl

theorem mmv_2950 : minimaxL 4 [some X, none, some X, some X, some O, none, none, none, some O] O X = (some 1, 1) := by
  rw [minimaxL_succ 3 [some X, none, some X, some X, some O, none, none, none, some O] O X [1, 5, 6, 7] rfl rfl (List.cons_ne_nil _ _)]
  show pickBest [(1, (minimaxL 3 [some X, some O, some X, some X, some O, none, none, none, some O] X O).2), (5, (minimaxL 3 [some X, none, some X, some X, some O, some O, none, none, some O] X O).2), (6, (minimaxL 3 [some X, none, some X, some X, some O, none, some O, none, some O] X O).2), (7, (minimaxL 3 [some X, none, some X, some X, some O, none, none, some O, some O] X O).2)] O = (some 1, 1)
  rw [mmv_0164, mmv_2919, mmv_0964, mmv_2951]
  rfl

theorem mmv_2952 : minimaxL 4 [none, none, some X, some X, some O, some X, none, none, some O] O X = (some 0, -1) := rfl

theorem mmv_2953 : minimaxL 4 [none, none, some X, some X, some O, none, some X, none, some O] O X = (some 0, -1) := rfl

theorem mmv_2954 : minimaxL 4 [none, none, some X, some X, some O, none, none, some X, some O] O X = (some 0, -1) := rfl

theorem mmv_2949 : minimaxL 5 [none, none, some X, some X, some O, none, none, none, some O] X O = (some 0, 1) := by
  rw [minimaxL_succ 4 [none, none, some X, some X, some O, none, none, none, some O] X O [0, 1, 5, 6, 7] rfl rfl (List.cons_ne_nil _ _)]
  show pickBest [(0, (minimaxL 4 [some X, none, some X, some X, some O, none, none, none, some O] O X).2), (1, (minimaxL 4 [none, some X, some X, some X, some O, none, none, none, some O] O X).2), (5, (minimaxL 4 [none, none, some X, some X, some O, some X, none, none, some O] O X).2), (6, (minimaxL 4 [none, none, some X, some X, some O, none, some X, none, some O] O X).2), (7, (minimaxL 4 [none, none, some X, some X, some O, none, none, some X, some O] O X).2)] X = (some 0, 1)
  rw [mmv_2950, mmv_2162, mmv_2952, mmv_2953, mmv_2954]
  rfl

theorem mmv_2915 : minimaxL 6 [none, none, some X, some X, some O, none, none, none, none] O X = (some 0, 0) := by
  rw [minimaxL_succ 5 [none, none, some X, some X, some O, none, none, none, none] O X [0, 1, 5, 6, 7, 8] rfl rfl (List.cons_ne_nil _ _)]
  show pickBest [(0, (minimaxL 5 [some O, none, some X, some X, some O, none, none, none, none] X O).2), (1, (minimaxL 5 [none, some O, some X, some X, some O, none, none, none, none] X O).2), (5, (minimaxL 5 [none, none, some X, some X, some O, some O, none, none, none] X O).2), (6, (minimaxL 5 [none, none, some X, some X, some O, none, some O, none, none] X O).2), (7, (minimaxL 5 [none, none, some X, some X, some O, none, none, some O, none] X O).2), (8, (minimaxL 5 [none, none, some X, some X, some O, none, none, none, some O] X O).2)] O = (some 0, 0)
  rw [mmv_2456, mmv_2646, mmv_2916, mmv_2934, mmv_2944, mmv_2949]
  rfl

theorem mmv_2956 : minimaxL 5 [none, none, some X, none, some O, some X, some O, none, none] X O = (some 8, 1) := rfl

theorem mmv_2957 : minimaxL 5 [none, none, some X, none, some O, some X, none, some O, none] X O = (some 8, 1) := rfl

theorem mmv_2959 : minimaxL 4 [none, none, some X, none, some O, some X, some X, none, some O] O X = (some 0, -1) := rfl

theorem mmv_2960 : minimaxL 4 [none, none, some X, none, some O, some X, none, some X, some O] O X = (some 0, -1) := rfl

theorem mmv_2958 : minimaxL 5 [none, none, some X, none, some O, some X, none, none, some O] X O = (some 0, 0) := by
  rw [minimaxL_succ 4 [none, none, some X, none, some O, some X, none, none, some O] X O [0, 1, 3, 6, 7] rfl rfl (List.cons_ne_nil _ _)]
  show pickBest [(0, (minimaxL 4 [some X, none, some X, none, some O, some X, none, none, some O] O X).2), (1, (minimaxL 4 [none, some X, some X, none, some O, some X, none, none, some O] O X).2), (3, (minimaxL 4 [none, none, some X, some X, some O, some X, none, none, some O] O X).2), (6, (minimaxL 4 [none, none, some X, none, some O, some X, some X, none, some O] O X).2), (7, (minimaxL 4 [none, none, some X, none, some O, some X, none, some X, some O] O X).2)] X = (some 0, 0)
  rw [mmv_0989, mmv_2184, mmv_2952, mmv_2959, mmv_2960]
  rfl

theorem mmv_2955 : minimaxL 6 [none, none, some X, none, some O, some X, none, none, none] O X = (some 8, 0) := by
  rw [minimaxL_succ 5 [none, none, some X, none, some O, some X, none, none, none] O X [0, 1, 3, 6, 7, 8] rfl rfl (List.cons_ne_nil _ _)]
  show pickBest [(0, (minimaxL 5 [some O, none, some X, none, some O, some X, none, none, none] X O).2), (1, (minimaxL 5 [none, some O, some X, none, some O, some X, none, none, none] X O).2), (3, (minimaxL 5 [none, none, some X, some O, some O, some X, none, none, none] X O).2), (6, (minimaxL 5 [none, none, some X, none, some O, some X, some O, none, none] X O).2), (7, (minimaxL 5 [none, none, some X, none, some O, some X, none, some O, none] X O).2), (8, (minimaxL 5 [none, none, some X, none, some O, some X, none, none, some O] X O).2)] O = (some 8, 0)
  rw [mmv_2541, mmv_2750, mmv_2844, mmv_2956, mmv_2957, mmv_2958]
  rfl

theorem mmv_2963 : minimaxL 4 [some X, none, some X, none, some O, some O, some X, none, none] O X = (some 3, -1) := rfl

theorem mmv_2964 : minimaxL 4 [none, none, some X, none, some O, some O, some X, some X, none] O X = (some 3, -1) := rfl

theorem mmv_2965 : minimaxL 4 [none, none, some X, none, some O, some O, some X, none, some X] O X = (some 3, -1) := rfl

theorem mmv_2962 : minimaxL 5 [none, none, some X, none, some O, some O, some X, none, none] X O = (some 3, 0) := by
  rw [minimaxL_succ 4 [none, none, some X, none, some O, some O, some X, none, none] X O [0, 1, 3, 7, 8] rfl rfl (List.cons_ne_nil _ _)]
  show pickBest [(0, (minimaxL 4 [some X, none, some X, none, some O, some O, some X, none, none] O X).2), (1, (minimaxL 4 [none, some X, some X, none, some O, some O, some X, none, none] O X).2), (3, (minimaxL 4 [none, none, some X, some X, some O, some O, some X, none, none] O X).2), (7, (minimaxL 4 [none, none, some X, none, some O, some O, some X, some X, none] O X).2), (8, (minimaxL 4 [none, none, some X, none, some O, some O, some X, none, some X] O X).2)] X = (some 3, 0)
  rw [mmv_2963, mmv_2190, mmv_2920, mmv_2964, mmv_2965]
  rfl

theorem mmv_2967 : minimaxL 4 [some X, none, some X, none, some O, none, some X, some O, none] O X = (some 1, -1) := rfl

theorem mmv_2968 : minimaxL 4 [none, none, some X, none, some O, some X, some X, some O, none] O X = (some 1, -1) := rfl

theorem mmv_2969 : minimaxL 4 [none, none, some X, none, some O, none, some X, some O, some X] O X = (some 1, -1) := rfl

theorem mmv_2966 : minimaxL 5 [none, none, some X, none, some O, none, some X, some O, none] X O = (some 1, 0) := by
  rw [minimaxL_succ 4 [none, none, some X, none, some O, none, some X, some O, none] X O [0, 1, 3, 5, 8] rfl rfl (List.cons_ne_nil _ _)]
  show pickBest [(0, (minimaxL 4 [some X, none, some X, none, some O, none, some X, some O, none] O X).2), (1, (minimaxL 4 [none, some X, some X, none, some O, none, some X, some O, none] O X).2), (3, (minimaxL 4 [none, none, some X, some X, some O, none, some X, some O, none] O X).2), (5, (minimaxL 4 [none, none, some X, none, some O, some X, some X, some O, none] O X).2), (8, (minimaxL 4 [none, none, some X, none, some O, none, some X, some O, some X] O X).2)] X = (some 1, 0)
  rw [mmv_2967, mmv_2197, mmv_2947, mmv_2968, mmv_2969]
  rfl

theorem mmv_2972 : minimaxL 3 [some X, none, some X, none, some O, some O, some X, none, some O] X O = (some 1, 1) := rfl

theorem mmv_2973 : minimaxL 3 [some X, none, some X, none, some O, none, some X, some O, some O] X O = (some 1, 1) := rfl

theorem mmv_2971 : minimaxL 4 [some X, none, some X, none, some O, none, some X, none, some O] O X = (some 1, 1) := by
  rw [minimaxL_succ 3 [some X, none, some X, none, some O, none, some X, none, some O] O X [1, 3, 5, 7] rfl rfl (List.cons_ne_nil _ _)]
  show pickBest [(1, (minimaxL 3 [some X, some O, some X, none, some O, none, some X, none, some O] X O).2), (3, (minimaxL 3 [some X, none, some X, some O, some O, none, some X, none, some O] X O).2), (5, (minimaxL 3 [some X, none, some X, none, some O, some O, some X, none, some O] X O).2), (7, (minimaxL 3 [some X, none, some X, none, some O, none, some X, some O, some O] X O).2)] O = (some 1, 1)
  rw [mmv_0176, mmv_0896, mmv_2972, mmv_2973]
  rfl

theorem mmv_2974 : minimaxL 4 [none, none, some X, none, some O, none, some X, some X, some O] O X = (some 0, -1) := rfl

theorem mmv_2970 : minimaxL 5 [none, none, some X, none, some O, none, some X, none, some O] X O = (some 0, 1) := by
  rw [minimaxL_succ 4 [none, none, some X, none, some O, none, some X, none, some O] X O [0, 1, 3, 5, 7] rfl rfl (List.cons_ne_nil _ _)]
  show pickBest [(0, (minimaxL 4 [some X, none, some X, none, some O, none, some X, none, some O] O X).2), (1, (minimaxL 4 [none, some X, some X, none, some O, none, some X, none, some O] O X).2), (3, (minimaxL 4 [none, none, some X, some X, some O, none, some X, none, some O] O X).2), (5, (minimaxL 4 [none, none, some X, none, some O, some X, some X, none, some O] O X).2), (7, (minimaxL 4 [none, none, some X, none, some O, none, some X, some X, some O] O X).2)] X = (some 0, 1)
  rw [mmv_2971, mmv_2207, mmv_2953, mmv_2959, mmv_2974]
  rfl

theorem mmv_2961 : minimaxL 6 [none, none, some X, none, some O, none, some X, none, none] O X = (some 1, 0) := by
  rw [minimaxL_succ 5 [none, none, some X, none, some O, none, some X, none, none] O X [0, 1, 3, 5, 7, 8] rfl rfl (List.cons_ne_nil _ _)]
  show pickBest [(0, (minimaxL 5 [some O, none, some X, none, some O, none, some X, none, none] X O).2), (1, (minimaxL 5 [none, some O, some X, none, some O, none, some X, none, none] X O).2), (3, (minimaxL 5 [none, none, some X, some O, some O, none, some X, none, none] X O).2), (5, (minimaxL 5 [none, none, some X, none, some O, some O, some X, none, none] X O).2), (7, (minimaxL 5 [none, none, some X, none, some O, none, some X, some O, none] X O).2), (8, (minimaxL 5 [none, none, some X, none, some O, none, some X, none, some O] X O).2)] O = (some 1, 0)
  rw [mmv_2555, mmv_2773, mmv_2866, mmv_2962, mmv_2966, mmv_2970]
  rfl

theorem mmv_2977 : minimaxL 4 [none, none, some X, none, some O, some O, none, some X, some X] O X = (some 3, -1) := rfl

theorem mmv_2976 : minimaxL 5 [none, none, some X, none, some O, some O, none, some X, none] X O = (some 3, 0) := by
  rw [minimaxL_succ 4 [none, none, some X, none, some O, some O, none, some X, none] X O [0, 1, 3, 6, 8] rfl rfl (List.cons_ne_nil _ _)]
  show pickBest [(0, (minimaxL 4 [some X, none, some X, none, some O, some O, none, some X, none] O X).2), (1, (minimaxL 4 [none, some X, some X, none, some O, some O, none, some X, none] O X).2), (3, (minimaxL 4 [none, none, some X, some X, some O, some O, none, some X, none] O X).2), (6, (minimaxL 4 [none, none, some X, none, some O, some O, some X, some X, none] O X).2), (8, (minimaxL 4 [none, none, some X, none, some O, some O, none, some X, some X] O X).2)] X = (some 3, 0)
  rw [mmv_1010, mmv_2211, mmv_2923, mmv_2964, mmv_2977]
  rfl

theorem mmv_2980 : minimaxL 3 [some O, none, some X, none, some O, some X, some O, some X, none] X O = (some 8, 1) := rfl

theorem mmv_2981 : minimaxL 3 [none, none, some X, none, some O, some X, some O, some X, some O] X O = (some 0, 0) := by
  rw [minimaxL_succ 2 [none, none, some X, none, some O, some X, some O, some X, some O] X O [0, 1, 3] rfl rfl (List.cons_ne_nil _ _)]
  show pickBest [(0, (minimaxL 2 [some X, none, some X, none, some O, some X, some O, some X, some O] O X).2), (1, (minimaxL 2 [none, some X, some X, none, some O, some X, some O, some X, some O] O X).2), (3, (minimaxL 2 [none, none, some X, some X, some O, some X, some O, some X, some O] O X).2)] X = (some 0, 0)
  rw [mmv_1002, mmv_2358, mmv_2939]
  rfl

theorem mmv_2979 : minimaxL 4 [none, none, some X, none, some O, some X, some O, some X, none] O X = (some 8, 0) := by
  rw [minimaxL_succ 3 [none, none, some X, none, some O, some X, some O, some X, none] O X [0, 1, 3, 8] rfl rfl (List.cons_ne_nil _ _)]
  show pickBest [(0, (minimaxL 3 [some O, none, some X, none, some O, some X, some O, some X, none] X O).2), (1, (minimaxL 3 [none, some O, some X, none, some O, some X, some O, some X, none] X O).2), (3, (minimaxL 3 [none, none, some X, some O, some O, some X, some O, some X, none] X O).2), (8, (minimaxL 3 [none, none, some X, none, some O, some X, some O, some X, some O] X O).2)] O = (some 8, 0)
  rw [mmv_2980, mmv_2800, mmv_2880, mmv_2981]
  rfl

theorem mmv_2983 : minimaxL 3 [none, none, some X, some O, some O, none, some O, some X, some X] X O = (some 5, 1) := rfl

theorem mmv_2984 : minimaxL 3 [none, none, some X, none, some O, some O, some O, some X, some X] X O = (some 3, 0) := by
  rw [minimaxL_succ 2 [none, none, some X, none, some O, some O, some O, some X, some X] X O [0, 1, 3] rfl rfl (List.cons_ne_nil _ _)]
  show pickBest [(0, (minimaxL 2 [some X, none, some X, none, some O, some O, some O, some X, some X] O X).2), (1, (minimaxL 2 [none, some X, some X, none, some O, some O, some O, some X, some X] O X).2), (3, (minimaxL 2 [none, none, some X, some X, some O, some O, some O, some X, some X] O X).2)] X = (some 3, 0)
  rw [mmv_1137, mmv_2318, mmv_2925]
  rfl

theorem mmv_2982 : minimaxL 4 [none, none, some X, none, some O, none, some O, some X, some X] O X = (some 5, 0) := by
  rw [minimaxL_succ 3 [none, none, some X, none, some O, none, some O, some X, some X] O X [0, 1, 3, 5] rfl rfl (List.cons_ne_nil _ _)]
  show pickBest [(0, (minimaxL 3 [some O, none, some X, none, some O, none, some O, some X, some X] X O).2), (1, (minimaxL 3 [none, some O, some X, none, some O, none, some O, some X, some X] X O).2), (3, (minimaxL 3 [none, none, some X, some O, some O, none, some O, some X, some X] X O).2), (5, (minimaxL 3 [none, none, some X, none, some O, some O, some O, some X, some X] X O).2)] O = (some 5, 0)
  rw [mmv_2607, mmv_2803, mmv_2983, mmv_2984]
  rfl

theorem mmv_2978 : minimaxL 5 [none, none, some X, none, some O, none, some O, some X, none] X O = (some 8, 0) := by
  rw [minimaxL_succ 4 [none, none, some X, none, some O, none, some O, some X, none] X O [0, 1, 3, 5, 8] rfl rfl (List.cons_ne_nil _ _)]
  show pickBest [(0, (minimaxL 4 [some X, none, some X, none, some O, none, some O, some X, none] O X).2), (1, (minimaxL 4 [none, some X, some X, none, some O, none, some O, some X, none] O X).2), (3, (minimaxL 4 [none, none, some X, some X, some O, none, some O, some X, none] O X).2), (5, (minimaxL 4 [none, none, some X, none, some O, some X, some O, some X, none] O X).2), (8, (minimaxL 4 [none, none, some X, none, some O, none, some O, some X, some X] O X).2)] X = (some 8, 0)
  rw [mmv_1023, mmv_2214, mmv_2940, mmv_2979, mmv_2982]
  rfl

theorem mmv_2985 : minimaxL 5 [none, none, some X, none, some O, none, none, some X, some O] X O = (some 0, 0) := by
  rw [minimaxL_succ 4 [none, none, some X, none, some O, none, none, some X, some O] X O [0, 1, 3, 5, 6] rfl rfl (List.cons_ne_nil _ _)]
  show pickBest [(0, (minimaxL 4 [some X, none, some X, none, some O, none, none, some X, some O] O X).2), (1, (minimaxL 4 [none, some X, some X, none, some O, none, none, some X, some O] O X).2), (3, (minimaxL 4 [none, none, some X, some X, some O, none, none, some X, some O] O X).2), (5, (minimaxL 4 [none, none, some X, none, some O, some X, none, some X, some O] O X).2), (6, (minimaxL 4 [none, none, some X, none, some O, none, some X, some X, some O] O X).2)] X = (some 0, 0)
  rw [mmv_1034, mmv_2222, mmv_2954, mmv_2960, mmv_2974]
  rfl

theorem mmv_2975 : minimaxL 6 [none, none, some X, none, some O, none, none, some X, none] O X = (some 3, 0) := by
  rw [minimaxL_succ 5 [none, none, some X, none, some O, none, none, some X, none] O X [0, 1, 3, 5, 6, 8] rfl rfl (List.cons_ne_nil _ _)]
  show pickBest [(0, (minimaxL 5 [some O, none, some X, none, some O, none, none, some X, none] X O).2), (1, (minimaxL 5 [none, some O, some X, none, some O, none, none, some X, none] X O).2), (3, (minimaxL 5 [none, none, some X, some O, some O, none, none, some X, none] X O).2), (5, (minimaxL 5 [none, none, some X, none, some O, some O, none, some X, none] X O).2), (6, (minimaxL 5 [none, none, some X, none, some O, none, some O, some X, none] X O).2), (8, (minimaxL 5 [none, none, some X, none, some O, none, none, some X, some O] X O).2)] O = (some 3, 0)
  rw [mmv_2602, mmv_2798, mmv_2877, mmv_2976, mmv_2978, mmv_2985]
  rfl

theorem mmv_2987 : minimaxL 5 [none, none, some X, none, some O, some O, none, none, some X] X O = (some 3, 0) := by
  rw [minimaxL_succ 4 [none, none, some X, none, some O, some O, none, none, some X] X O [0, 1, 3, 6, 7] rfl rfl (List.cons_ne_nil _ _)]
  show pickBest [(0, (minimaxL 4 [some X, none, some X, none, some O, some O, none, none, some X] O X).2), (1, (minimaxL 4 [none, some X, some X, none, some O, some O, none, none, some X] O X).2), (3, (minimaxL 4 [none, none, some X, some X, some O, some O, none, none, some X] O X).2), (6, (minimaxL 4 [none, none, some X, none, some O, some O, some X, none, some X] O X).2), (7, (minimaxL 4 [none, none, some X, none, some O, some O, none, some X, some X] O X).2)] X = (some 3, 0)
  rw [mmv_1046, mmv_2225, mmv_2929, mmv_2965, mmv_2977]
  rfl

theorem mmv_2988 : minimaxL 5 [none, none, some X, none, some O, none, some O, none, some X] X O = (some 5, 1) := rfl

theorem mmv_2989 : minimaxL 5 [none, none, some X, none, some O, none, none, some O, some X] X O = (some 5, 1) := rfl

theorem mmv_2986 : minimaxL 6 [none, none, some X, none, some O, none, none, none, some X] O X = (some 5, 0) := by
  rw [minimaxL_succ 5 [none, none, some X, none, some O, none, none, none, some X] O X [0, 1, 3, 5, 6, 7] rfl rfl (List.cons_ne_nil _ _)]
  show pickBest [(0, (minimaxL 5 [some O, none, some X, none, some O, none, none, none, some X] X O).2), (1, (minimaxL 5 [none, some O, some X, none, some O, none, none, none, some X] X O).2), (3, (minimaxL 5 [none, none, some X, some O, some O, none, none, none, some X] X O).2), (5, (minimaxL 5 [none, none, some X, none, some O, some O, none, none, some X] X O).2), (6, (minimaxL 5 [none, none, some X, none, some O, none, some O, none, some X] X O).2), (7, (minimaxL 5 [none, none, some X, none, some O, none, none, some O, some X] X O).2)] O = (some 5, 0)
  rw [mmv_2631, mmv_2819, mmv_2905, mmv_2987, mmv_2988, mmv_2989]
  rfl

theorem mmv_2914 : minimaxL 7 [none, none, some X, none, some O, none, none, none, none] X O = (some 8, 0) := by
  rw [minimaxL_succ 6 [none, none, some X, none, some O, none, none, none, none] X O [0, 1, 3, 5, 6, 7, 8] rfl rfl (List.cons_ne_nil _ _)]
  show pickBest [(0, (minimaxL 6 [some X, none, some X, none, some O, none, none, none, none] O X).2), (1, (minimaxL 6 [none, some X, some X, none, some O, none, none, none, none] O X).2), (3, (minimaxL 6 [none, none, some X, some X, some O, none, none, none, none] O X).2), (5, (minimaxL 6 [none, none, some X, none, some O, some X, none, none, none] O X).2), (6, (minimaxL 6 [none, none, some X, none, some O, none, some X, none, none] O X).2), (7, (minimaxL 6 [none, none, some X, none, some O, none, none, some X, none] O X).2), (8, (minimaxL 6 [none, none, some X, none, some O, none, none, none, some X] O X).2)] X = (some 8, 0)
  rw [mmv_0952, mmv_2092, mmv_2915, mmv_2955, mmv_2961, mmv_2975, mmv_2986]
  rfl

theorem mmv_2995 : minimaxL 2 [some X, none, some X, some X, some X, some O, some O, some O, none] O X = (some 8, -1) := rfl

theorem mmv_2996 : minimaxL 2 [none, none, some X, some X, some X, some O, some O, some O, some X] O X = (some 0, 0) := by
  rw [minimaxL_succ 1 [none, none, some X, some X, some X, some O, some O, some O, some X] O X [0, 1] rfl rfl (List.cons_ne_nil _ _)]
  show pickBest [(0, (minimaxL 1 [some O, none, some X, some X, some X, some O, some O, some O, some X] X O).2), (1, (minimaxL 1 [none, some O, some X, some X, some X, some O, some O, some O, some X] X O).2)] O = (some 0, 0)
  rw [mmv_2474, mmv_2669]
  rfl

theorem mmv_2994 : minimaxL 3 [none, none, some X, some X, some X, some O, some O, some O, none] X O = (some 8, 0) := by
  rw [minimaxL_succ 2 [none, none, some X, some X, some X, some O, some O, some O, none] X O [0, 1, 8] rfl rfl (List.cons_ne_nil _ _)]
  show pickBest [(0, (minimaxL 2 [some X, none, some X, some X, some X, some O, some O, some O, none] O X).2), (1, (minimaxL 2 [none, some X, some X, some X, some X, some O, some O, some O, none] O X).2), (8, (minimaxL 2 [none, none, some X, some X, some X, some O, some O, some O, some X] O X).2)] X = (some 8, 0)
  rw [mmv_2995, mmv_2247, mmv_2996]
  rfl

theorem mmv_2998 : minimaxL 2 [none, some X, some X, some X, some X, some O, some O, none, some O] O X = (some 7, -1) := rfl

theorem mmv_2999 : minimaxL 2 [none, none, some X, some X, some X, some O, some O, some X, some O] O X = (some 1, 0) := by
  rw [minimaxL_succ 1 [none, none, some X, some X, some X, some O, some O, some X, some O] O X [0, 1] rfl rfl (List.cons_ne_nil _ _)]
  show pickBest [(0, (minimaxL 1 [some O, none, some X, some X, some X, some O, some O, some X, some O] X O).2), (1, (minimaxL 1 [none, some O, some X, some X, some X, some O, some O, some X, some O] X O).2)] O = (some 1, 0)
  rw [mmv_2472, mmv_2667]
  rfl

theorem mmv_2997 : minimaxL 3 [none, none, some X, some X, some X, some O, some O, none, some O] X O = (some 7, 0) := by
  rw [minimaxL_succ 2 [none, none, some X, some X, some X, some O, some O, none, some O] X O [0, 1, 7] rfl rfl (List.cons_ne_nil _ _)]
  show pickBest [(0, (minimaxL 2 [some X, none, some X, some X, some X, some O, some O, none, some O] O X).2), (1, (minimaxL 2 [none, some X, some X, some X, some X, some O, some O, none, some O] O X).2), (7, (minimaxL 2 [none, none, some X, some X, some X, some O, some O, some X, some O] O X).2)] X = (some 7, 0)
  rw [mmv_1096, mmv_2998, mmv_2999]
  rfl

theorem mmv_2993 : minimaxL 4 [none, none, some X, some X, some X, some O, some O, none, none] O X = (some 0, 0) := by
  rw [minimaxL_succ 3 [none, none, some X, some X, some X, some O, some O, none, none] O X [0, 1, 7, 8] rfl rfl (List.cons_ne_nil _ _)]
  show pickBest [(0, (minimaxL 3 [some O, none, some X, some X, some X, some O, some O, none, none] X O).2), (1, (minimaxL 3 [none, some O, some X, some X, some X, some O, some O, none, none] X O).2), (7, (minimaxL 3 [none, none, some X, some X, some X, some O, some O, some O, none] X O).2), (8, (minimaxL 3 [none, none, some X, some X, some X, some O, some O, none, some O] X O).2)] O = (some 0, 0)
  rw [mmv_2470, mmv_2665, mmv_2994, mmv_2997]
  rfl

theorem mmv_3002 : minimaxL 2 [none, some X, some X, some X, none, some O, some O, some X, some O] O X = (some 0, 1) := by
  rw [minimaxL_succ 1 [none, some X, some X, some X, none, some O, some O, some X, some O] O X [0, 4] rfl rfl (List.cons_ne_nil _ _)]
  show pickBest [(0, (minimaxL 1 [some O, some X, some X, some X, none, some O, some O, some X, some O] X O).2), (4, (minimaxL 1 [none, some X, some X, some X, some O, some O, some O, some X, some O] X O).2)] O = (some 0, 1)
  rw [mmv_1277, mmv_2116]
  rfl

theorem mmv_3001 : minimaxL 3 [none, none, some X, some X, none, some O, some O, some X, some O] X O = (some 1, 1) := by
  rw [minimaxL_succ 2 [none, none, some X, some X, none, some O, some O, some X, some O] X O [0, 1, 4] rfl rfl (List.cons_ne_nil _ _)]
  show pickBest [(0, (minimaxL 2 [some X, none, some X, some X, none, some O, some O, some X, some O] O X).2), (1, (minimaxL 2 [none, some X, some X, some X, none, some O, some O, some X, some O] O X).2), (4, (minimaxL 2 [none, none, some X, some X, some X, some O, some O, some X, some O] O X).2)] X = (some 1, 1)
  rw [mmv_1104, mmv_3002, mmv_2999]
  rfl

theorem mmv_3000 : minimaxL 4 [none, none, some X, some X, none, some O, some O, some X, none] O X = (some 0, 0) := by
  rw [minimaxL_succ 3 [none, none, some X, some X, none, some O, some O, some X, none] O X [0, 1, 4, 8] rfl rfl (List.cons_ne_nil _ _)]
  show pickBest [(0, (minimaxL 3 [some O, none, some X, some X, none, some O, some O, some X, none] X O).2), (1, (minimaxL 3 [none, some O, some X, some X, none, some O, some O, some X, none] X O).2), (4, (minimaxL 3 [none, none, some X, some X, some O, some O, some O, some X, none] X O).2), (8, (minimaxL 3 [none, none, some X, some X, none, some O, some O, some X, some O] X O).2)] O = (some 0, 0)
  rw [mmv_2484, mmv_2677, mmv_2924, mmv_3001]
  rfl

theorem mmv_3005 : minimaxL 2 [some X, none, some X, some X, none, some O, some O, some O, some X] O X = (some 1, 1) := by
  rw [minimaxL_succ 1 [some X, none, some X, some X, none, some O, some O, some O, some X] O X [1, 4] rfl rfl (List.cons_ne_nil _ _)]
  show pickBest [(1, (minimaxL 1 [some X, some O, some X, some X, none, some O, some O, some O, some X] X O).2), (4, (minimaxL 1 [some X, none, some X, some X, some O, some O, some O, some O, some X] X O).2)] O = (some 1, 1)
  rw [mmv_0101, mmv_1053]
  rfl

theorem mmv_3004 : minimaxL 3 [none, none, some X, some X, none, some O, some O, some O, some X] X O = (some 0, 1) := by
  rw [minimaxL_succ 2 [none, none, some X, some X, none, some O, some O, some O, some X] X O [0, 1, 4] rfl rfl (List.cons_ne_nil _ _)]
  show pickBest [(0, (minimaxL 2 [some X, none, some X, some X, none, some O, some O, some O, some X] O X).2), (1, (minimaxL 2 [none, some X, some X, some X, none, some O, some O, some O, some X] O X).2), (4, (minimaxL 2 [none, none, some X, some X, some X, some O, some O, some O, some X] O X).2)] X = (some 0, 1)
  rw [mmv_3005, mmv_2256, mmv_2996]
  rfl

theorem mmv_3003 : minimaxL 4 [none, none, some X, some X, none, some O, some O, none, some X] O X = (some 0, 0) := by
  rw [minimaxL_succ 3 [none, none, some X, some X, none, some O, some O, none, some X] O X [0, 1, 4, 7] rfl rfl (List.cons_ne_nil _ _)]
  show pickBest [(0, (minimaxL 3 [some O, none, some X, some X, none, some O, some O, none, some X] X O).2), (1, (minimaxL 3 [none, some O, some X, some X, none, some O, some O, none, some X] X O).2), (4, (minimaxL 3 [none, none, some X, some X, some O, some O, some O, none, some X] X O).2), (7, (minimaxL 3 [none, none, some X, some X, none, some O, some O, some O, some X] X O).2)] O = (some 0, 0)
  rw [mmv_2490, mmv_2685, mmv_2930, mmv_3004]
  rfl

theorem mmv_2992 : minimaxL 5 [none, none, some X, some X, none, some O, some O, none, none] X O = (some 8, 0) := by
  rw [minimaxL_succ 4 [none, none, some X, some X, none, some O, some O, none, none] X O [0, 1, 4, 7, 8] rfl rfl (List.cons_ne_nil _ _)]
  show pickBest [(0, (minimaxL 4 [some X, none, some X, some X, none, some O, some O, none, none] O X).2), (1, (minimaxL 4 [none, some X, some X, some X, none, some O, some O, none, none] O X).2), (4, (minimaxL 4 [none, none, some X, some X, some X, some O, some O, none, none] O X).2), (7, (minimaxL 4 [none, none, some X, some X, none, some O, some O, some X, none] O X).2), (8, (minimaxL 4 [none, none, some X, some X, none, some O, some O, none, some X] O X).2)] X = (some 8, 0)
  rw [mmv_1089, mmv_2241, mmv_2993, mmv_3000, mmv_3003]
  rfl

theorem mmv_3008 : minimaxL 3 [some X, none, some X, some X, none, some O, none, some O, some O] X O = (some 1, 1) := rfl

theorem mmv_3007 : minimaxL 4 [some X, none, some X, some X, none, some O, none, some O, none] O X = (some 1, 1) := by
  rw [minimaxL_succ 3 [some X, none, some X, some X, none, some O, none, some O, none] O X [1, 4, 6, 8] rfl rfl (List.cons_ne_nil _ _)]
  show pickBest [(1, (minimaxL 3 [some X, some O, some X, some X, none, some O, none, some O, none] X O).2), (4, (minimaxL 3 [some X, none, some X, some X, some O, some O, none, some O, none] X O).2), (6, (minimaxL 3 [some X, none, some X, some X, none, some O, some O, some O, none] X O).2), (8, (minimaxL 3 [some X, none, some X, some X, none, some O, none, some O, some O] X O).2)] O = (some 1, 1)
  rw [mmv_0102, mmv_2918, mmv_1090, mmv_3008]
  rfl

theorem mmv_3010 : minimaxL 3 [none, none, some X, some X, some X, some O, none, some O, some O] X O = (some 6, 1) := rfl

theorem mmv_3009 : minimaxL 4 [none, none, some X, some X, some X, some O, none, some O, none] O X = (some 6, 0) := by
  rw [minimaxL_succ 3 [none, none, some X, some X, some X, some O, none, some O, none] O X [0, 1, 6, 8] rfl rfl (List.cons_ne_nil _ _)]
  show pickBest [(0, (minimaxL 3 [some O, none, some X, some X, some X, some O, none, some O, none] X O).2), (1, (minimaxL 3 [none, some O, some X, some X, some X, some O, none, some O, none] X O).2), (6, (minimaxL 3 [none, none, some X, some X, some X, some O, some O, some O, none] X O).2), (8, (minimaxL 3 [none, none, some X, some X, some X, some O, none, some O, some O] X O).2)] O = (some 6, 0)
  rw [mmv_2475, mmv_2670, mmv_2994, mmv_3010]
  rfl

theorem mmv_3012 : minimaxL 3 [none, none, some X, some X, none, some O, some X, some O, some O] X O = (some 4, 1) := rfl

theorem mmv_3011 : minimaxL 4 [none, none, some X, some X, none, some O, some X, some O, none] O X = (some 0, 1) := by
  rw [minimaxL_succ 3 [none, none, some X, some X, none, some O, some X, some O, none] O X [0, 1, 4, 8] rfl rfl (List.cons_ne_nil _ _)]
  show pickBest [(0, (minimaxL 3 [some O, none, some X, some X, none, some O, some X, some O, none] X O).2), (1, (minimaxL 3 [none, some O, some X, some X, none, some O, some X, some O, none] X O).2), (4, (minimaxL 3 [none, none, some X, some X, some O, some O, some X, some O, none] X O).2), (8, (minimaxL 3 [none, none, some X, some X, none, some O, some X, some O, some O] X O).2)] O = (some 0, 1)
  rw [mmv_2480, mmv_2674, mmv_2921, mmv_3012]
  rfl

theorem mmv_3013 : minimaxL 4 [none, none, some X, some X, none, some O, none, some O, some X] O X = (some 0, 0) := by
  rw [minimaxL_succ 3 [none, none, some X, some X, none, some O, none, some O, some X] O X [0, 1, 4, 6] rfl rfl (List.cons_ne_nil _ _)]
  show pickBest [(0, (minimaxL 3 [some O, none, some X, some X, none, some O, none, some O, some X] X O).2), (1, (minimaxL 3 [none, some O, some X, some X, none, some O, none, some O, some X] X O).2), (4, (minimaxL 3 [none, none, some X, some X, some O, some O, none, some O, some X] X O).2), (6, (minimaxL 3 [none, none, some X, some X, none, some O, some O, some O, some X] X O).2)] O = (some 0, 0)
  rw [mmv_2491, mmv_2686, mmv_2931, mmv_3004]
  rfl

theorem mmv_3006 : minimaxL 5 [none, none, some X, some X, none, some O, none, some O, none] X O = (some 6, 1) := by
  rw [minimaxL_succ 4 [none, none, some X, some X, none, some O, none, some O, none] X O [0, 1, 4, 6, 8] rfl rfl (List.cons_ne_nil _ _)]
  show pickBest [(0, (minimaxL 4 [some X, none, some X, some X, none, some O, none, some O, none] O X).2), (1, (minimaxL 4 [none, some X, some X, some X, none, some O, none, some O, none] O X).2), (4, (minimaxL 4 [none, none, some X, some X, some X, some O, none, some O, none] O X).2), (6, (minimaxL 4 [none, none, some X, some X, none, some O, some X, some O, none] O X).2), (8, (minimaxL 4 [none, none, some X, some X, none, some O, none, some O, some X] O X).2)] X = (some 6, 1)
  rw [mmv_3007, mmv_2260, mmv_3009, mmv_3011, mmv_3013]
  rfl

theorem mmv_3015 : minimaxL 4 [some X, none, some X, some X, none, some O, none, none, some O] O X = (some 1, 1) := by
  rw [minimaxL_succ 3 [some X, none, some X, some X, none, some O, none, none, some O] O X [1, 4, 6, 7] rfl rfl (List.cons_ne_nil _ _)]
  show pickBest [(1, (minimaxL 3 [some X, some O, some X, some X, none, some O, none, none, some O] X O).2), (4, (minimaxL 3 [some X, none, some X, some X, some O, some O, none, none, some O] X O).2), (6, (minimaxL 3 [some X, none, some X, some X, none, some O, some O, none, some O] X O).2), (7, (minimaxL 3 [some X, none, some X, some X, none, some O, none, some O, some O] X O).2)] O = (some 1, 1)
  rw [mmv_0103, mmv_2919, mmv_1091, mmv_3008]
  rfl

theorem mmv_3016 : minimaxL 4 [none, none, some X, some X, some X, some O, none, none, some O] O X = (some 6, 0) := by
  rw [minimaxL_succ 3 [none, none, some X, some X, some X, some O, none, none, some O] O X [0, 1, 6, 7] rfl rfl (List.cons_ne_nil _ _)]
  show pickBest [(0, (minimaxL 3 [some O, none, some X, some X, some X, some O, none, none, some O] X O).2), (1, (minimaxL 3 [none, some O, some X, some X, some X, some O, none, none, some O] X O).2), (6, (minimaxL 3 [none, none, some X, some X, some X, some O, some O, none, some O] X O).2), (7, (minimaxL 3 [none, none, some X, some X, some X, some O, none, some O, some O] X O).2)] O = (some 6, 0)
  rw [mmv_2476, mmv_2671, mmv_2997, mmv_3010]
  rfl

theorem mmv_3017 : minimaxL 4 [none, none, some X, some X, none, some O, some X, none, some O] O X = (some 0, 1) := by
  rw [minimaxL_succ 3 [none, none, some X, some X, none, some O, some X, none, some O] O X [0, 1, 4, 7] rfl rfl (List.cons_ne_nil _ _)]
  show pickBest [(0, (minimaxL 3 [some O, none, some X, some X, none, some O, some X, none, some O] X O).2), (1, (minimaxL 3 [none, some O, some X, some X, none, some O, some X, none, some O] X O).2), (4, (minimaxL 3 [none, none, some X, some X, some O, some O, some X, none, some O] X O).2), (7, (minimaxL 3 [none, none, some X, some X, none, some O, some X, some O, some O] X O).2)] O = (some 0, 1)
  rw [mmv_2481, mmv_2675, mmv_2922, mmv_3012]
  rfl

theorem mmv_3018 : minimaxL 4 [none, none, some X, some X, none, some O, none, some X, some O] O X = (some 0, 1) := by
  rw [minimaxL_succ 3 [none, none, some X, some X, none, some O, none, some X, some O] O X [0, 1, 4, 6] rfl rfl (List.cons_ne_nil _ _)]
  show pickBest [(0, (minimaxL 3 [some O, none, some X, some X, none, some O, none, some X, some O] X O).2), (1, (minimaxL 3 [none, some O, some X, some X, none, some O, none, some X, some O] X O).2), (4, (minimaxL 3 [none, none, some X, some X, some O, some O, none, some X, some O] X O).2), (6, (minimaxL 3 [none, none, some X, some X, none, some O, some O, some X, some O] X O).2)] O = (some 0, 1)
  rw [mmv_2486, mmv_2679, mmv_2926, mmv_3001]
  rfl

theorem mmv_3014 : minimaxL 5 [none, none, some X, some X, none, some O, none, none, some O] X O = (some 7, 1) := by
  rw [minimaxL_succ 4 [none, none, some X, some X, none, some O, none, none, some O] X O [0, 1, 4, 6, 7] rfl rfl (List.cons_ne_nil _ _)]
  show pickBest [(0, (minimaxL 4 [some X, none, some X, some X, none, some O, none, none, some O] O X).2), (1, (minimaxL 4 [none, some X, some X, some X, none, some O, none, none, some O] O X).2), (4, (minimaxL 4 [none, none, some X, some X, some X, some O, none, none, some O] O X).2), (6, (minimaxL 4 [none, none, some X, some X, none, some O, some X, none, some O] O X).2), (7, (minimaxL 4 [none, none, some X, some X, none, some O, none, some X, some O] O X).2)] X = (some 7, 1)
  rw [mmv_3015, mmv_2272, mmv_3016, mmv_3017, mmv_3018]
  rfl

theorem mmv_2991 : minimaxL 6 [none, none, some X, some X, none, some O, none, none, none] O X = (some 0, 0) := by
  rw [minimaxL_succ 5 [none, none, some X, some X, none, some O, none, none, none] O X [0, 1, 4, 6, 7, 8] rfl rfl (List.cons_ne_nil _ _)]
  show pickBest [(0, (minimaxL 5 [some O, none, some X, some X, none, some O, none, none, none] X O).2), (1, (minimaxL 5 [none, some O, some X, some X, none, some O, none, none, none] X O).2), (4, (minimaxL 5 [none, none, some X, some X, some O, some O, none, none, none] X O).2), (6, (minimaxL 5 [none, none, some X, some X, none, some O, some O, none, none] X O).2), (7, (minimaxL 5 [none, none, some X, some X, none, some O, none, some O, none] X O).2), (8, (minimaxL 5 [none, none, some X, some X, none, some O, none, none, some O] X O).2)] O = (some 0, 0)
  rw [mmv_2468, mmv_2663, mmv_2916, mmv_2992, mmv_3006, mmv_3014]
  rfl

theorem mmv_3022 : minimaxL 3 [some X, none, some X, none, some X, some O, some O, some O, none] X O = (some 1, 1) := rfl

theorem mmv_3021 : minimaxL 4 [some X, none, some X, none, some X, some O, some O, none, none] O X = (some 1, 1) := by
  rw [minimaxL_succ 3 [some X, none, some X, none, some X, some O, some O, none, none] O X [1, 3, 7, 8] rfl rfl (List.cons_ne_nil _ _)]
  show pickBest [(1, (minimaxL 3 [some X, some O, some X, none, some X, some O, some O, none, none] X O).2), (3, (minimaxL 3 [some X, none, some X, some O, some X, some O, some O, none, none] X O).2), (7, (minimaxL 3 [some X, none, some X, none, some X, some O, some O, some O, none] X O).2), (8, (minimaxL 3 [some X, none, some X, none, some X, some O, some O, none, some O] X O).2)] O = (some 1, 1)
  rw [mmv_0105, mmv_2835, mmv_3022, mmv_1116]
  rfl

theorem mmv_3024 : minimaxL 3 [none, some X, some X, some O, some X, some O, some O, none, none] X O = (some 0, 1) := rfl

theorem mmv_3025 : minimaxL 3 [none, some X, some X, none, some X, some O, some O, none, some O] X O = (some 0, 1) := rfl

theorem mmv_3023 : minimaxL 4 [none, some X, some X, none, some X, some O, some O, none, none] O X = (some 0, 1) := by
  rw [minimaxL_succ 3 [none, some X, some X, none, some X, some O, some O, none, none] O X [0, 3, 7, 8] rfl rfl (List.cons_ne_nil _ _)]
  show pickBest [(0, (minimaxL 3 [some O, some X, some X, none, some X, some O, some O, none, none] X O).2), (3, (minimaxL 3 [none, some X, some X, some O, some X, some O, some O, none, none] X O).2), (7, (minimaxL 3 [none, some X, some X, none, some X, some O, some O, some O, none] X O).2), (8, (minimaxL 3 [none, some X, some X, none, some X, some O, some O, none, some O] X O).2)] O = (some 0, 1)
  rw [mmv_1293, mmv_3024, mmv_2283, mmv_3025]
  rfl

theorem mmv_3027 : minimaxL 3 [none, none, some X, none, some X, some O, some O, some X, some O] X O = (some 1, 1) := rfl

theorem mmv_3026 : minimaxL 4 [none, none, some X, none, some X, some O, some O, some X, none] O X = (some 1, 0) := by
  rw [minimaxL_succ 3 [none, none, some X, none, some X, some O, some O, some X, none] O X [0, 1, 3, 8] rfl rfl (List.cons_ne_nil _ _)]
  show pickBest [(0, (minimaxL 3 [some O, none, some X, none, some X, some O, some O, some X, none] X O).2), (1, (minimaxL 3 [none, some O, some X, none, some X, some O, some O, some X, none] X O).2), (3, (minimaxL 3 [none, none, some X, some O, some X, some O, some O, some X, none] X O).2), (8, (minimaxL 3 [none, none, some X, none, some X, some O, some O, some X, some O] X O).2)] O = (some 1, 0)
  rw [mmv_2611, mmv_2734, mmv_2885, mmv_3027]
  rfl

theorem mmv_3029 : minimaxL 3 [none, none, some X, none, some X, some O, some O, some O, some X] X O = (some 0, 1) := rfl

theorem mmv_3028 : minimaxL 4 [none, none, some X, none, some X, some O, some O, none, some X] O X = (some 0, 0) := by
  rw [minimaxL_succ 3 [none, none, some X, none, some X, some O, some O, none, some X] O X [0, 1, 3, 7] rfl rfl (List.cons_ne_nil _ _)]
  show pickBest [(0, (minimaxL 3 [some O, none, some X, none, some X, some O, some O, none, some X] X O).2), (1, (minimaxL 3 [none, some O, some X, none, some X, some O, some O, none, some X] X O).2), (3, (minimaxL 3 [none, none, some X, some O, some X, some O, some O, none, some X] X O).2), (7, (minimaxL 3 [none, none, some X, none, some X, some O, some O, some O, some X] X O).2)] O = (some 0, 0)
  rw [mmv_2636, mmv_2744, mmv_2909, mmv_3029]
  rfl

theorem mmv_3020 : minimaxL 5 [none, none, some X, none, some X, some O, some O, none, none] X O = (some 1, 1) := by
  rw [minimaxL_succ 4 [none, none, some X, none, some X, some O, some O, none, none] X O [0, 1, 3, 7, 8] rfl rfl (List.cons_ne_nil _ _)]
  show pickBest [(0, (minimaxL 4 [some X, none, some X, none, some X, some O, some O, none, none] O X).2), (1, (minimaxL 4 [none, some X, some X, none, some X, some O, some O, none, none] O X).2), (3, (minimaxL 4 [none, none, some X, some X, some X, some O, some O, none, none] O X).2), (7, (minimaxL 4 [none, none, some X, none, some X, some O, some O, some X, none] O X).2), (8, (minimaxL 4 [none, none, some X, none, some X, some O, some O, none, some X] O X).2)] X = (some 1, 1)
  rw [mmv_3021, mmv_3023, mmv_2993, mmv_3026, mmv_3028]
  rfl

theorem mmv_3030 : minimaxL 5 [none, none, some X, none, some X, some O, none, some O, none] X O = (some 6, 1) := rfl

theorem mmv_3031 : minimaxL 5 [none, none, some X, none, some X, some O, none, none, some O] X O = (some 6, 1) := rfl

theorem mmv_3019 : minimaxL 6 [none, none, some X, none, some X, some O, none, none, none] O X = (some 0, 1) := by
  rw [minimaxL_succ 5 [none, none, some X, none, some X, some O, none, none, none] O X [0, 1, 3, 6, 7, 8] rfl rfl (List.cons_ne_nil _ _)]
  show pickBest [(0, (minimaxL 5 [some O, none, some X, none, some X, some O, none, none, none] X O).2), (1, (minimaxL 5 [none, some O, some X, none, some X, some O, none, none, none] X O).2), (3, (minimaxL 5 [none, none, some X, some O, some X, some O, none, none, none] X O).2), (6, (minimaxL 5 [none, none, some X, none, some X, some O, some O, none, none] X O).2), (7, (minimaxL 5 [none, none, some X, none, some X, some O, none, some O, none] X O).2), (8, (minimaxL 5 [none, none, some X, none, some X, some O, none, none, some O] X O).2)] O = (some 0, 1)
  rw [mmv_2531, mmv_2723, mmv_2832, mmv_3020, mmv_3030, mmv_3031]
  rfl

theorem mmv_3033 : minimaxL 5 [none, none, some X, none, none, some O, some X, some O, none] X O = (some 4, 1) := rfl

theorem mmv_3034 : minimaxL 5 [none, none, some X, none, none, some O, some X, none, some O] X O = (some 4, 1) := rfl

theorem mmv_3032 : minimaxL 6 [none, none, some X, none, none, some O, some X, none, none] O X = (some 4, 0) := by
  rw [minimaxL_succ 5 [none, none, some X, none, none, some O, some X, none, none] O X [0, 1, 3, 4, 7, 8] rfl rfl (List.cons_ne_nil _ _)]
  show pickBest [(0, (minimaxL 5 [some O, none, some X, none, none, some O, some X, none, none] X O).2), (1, (minimaxL 5 [none, some O, some X, none, none, some O, some X, none, none] X O).2), (3, (minimaxL 5 [none, none, some X, some O, none, some O, some X, none, none] X O).2), (4, (minimaxL 5 [none, none, some X, none, some O, some O, some X, none, none] X O).2), (7, (minimaxL 5 [none, none, some X, none, none, some O, some X, some O, none] X O).2), (8, (minimaxL 5 [none, none, some X, none, none, some O, some X, none, some O] X O).2)] O = (some 4, 0)
  rw [mmv_2563, mmv_2780, mmv_2873, mmv_2962, mmv_3033, mmv_3034]
  rfl

theorem mmv_3038 : minimaxL 3 [none, some X, some X, some O, none, some O, some O, some X, none] X O = (some 0, 1) := rfl

theorem mmv_3039 : minimaxL 3 [none, some X, some X, none, none, some O, some O, some X, some O] X O = (some 0, 1) := rfl

theorem mmv_3037 : minimaxL 4 [none, some X, some X, none, none, some O, some O, some X, none] O X = (some 0, 1) := by
  rw [minimaxL_succ 3 [none, some X, some X, none, none, some O, some O, some X, none] O X [0, 3, 4, 8] rfl rfl (List.cons_ne_nil _ _)]
  show pickBest [(0, (minimaxL 3 [some O, some X, some X, none, none, some O, some O, some X, none] X O).2), (3, (minimaxL 3 [none, some X, some X, some O, none, some O, some O, some X, none] X O).2), (4, (minimaxL 3 [none, some X, some X, none, some O, some O, some O, some X, none] X O).2), (8, (minimaxL 3 [none, some X, some X, none, none, some O, some O, some X, some O] X O).2)] O = (some 0, 1)
  rw [mmv_1304, mmv_3038, mmv_2218, mmv_3039]
  rfl

theorem mmv_3042 : minimaxL 2 [some X, none, some X, some O, none, some O, some O, some X, some X] O X = (some 4, -1) := rfl

theorem mmv_3043 : minimaxL 2 [none, some X, some X, some O, none, some O, some O, some X, some X] O X = (some 4, -1) := rfl

theorem mmv_3044 : minimaxL 2 [none, none, some X, some O, some X, some O, some O, some X, some X] O X = (some 0, -1) := rfl

theorem mmv_3041 : minimaxL 3 [none, none, some X, some O, none, some O, some O, some X, some X] X O = (some 4, -1) := by
  rw [minimaxL_succ 2 [none, none, some X, some O, none, some O, some O, some X, some X] X O [0, 1, 4] rfl rfl (List.cons_ne_nil _ _)]
  show pickBest [(0, (minimaxL 2 [some X, none, some X, some O, none, some O, some O, some X, some X] O X).2), (1, (minimaxL 2 [none, some X, some X, some O, none, some O, some O, some X, some X] O X).2), (4, (minimaxL 2 [none, none, some X, some O, some X, some O, some O, some X, some X] O X).2)] X = (some 4, -1)
  rw [mmv_3042, mmv_3043, mmv_3044]
  rfl

theorem mmv_3040 : minimaxL 4 [none, none, some X, none, none, some O, some O, some X, some X] O X = (some 3, -1) := by
  rw [minimaxL_succ 3 [none, none, some X, none, none, some O, some O, some X, some X] O X [0, 1, 3, 4] rfl rfl (List.cons_ne_nil _ _)]
  show pickBest [(0, (minimaxL 3 [some O, none, some X, none, none, some O, some O, some X, some X] X O).2), (1, (minimaxL 3 [none, some O, some X, none, none, some O, some O, some X, some X] X O).2), (3, (minimaxL 3 [none, none, some X, some O, none, some O, some O, some X, some X] X O).2), (4, (minimaxL 3 [none, none, some X, none, some O, some O, some O, some X, some X] X O).2)] O = (some 3, -1)
  rw [mmv_2618, mmv_2810, mmv_3041, mmv_2984]
  rfl

theorem mmv_3036 : minimaxL 5 [none, none, some X, none, none, some O, some O, some X, none] X O = (some 1, 1) := by
  rw [minimaxL_succ 4 [none, none, some X, none, none, some O, some O, some X, none] X O [0, 1, 3, 4, 8] rfl rfl (List.cons_ne_nil _ _)]
  show pickBest [(0, (minimaxL 4 [some X, none, some X, none, none, some O, some O, some X, none] O X).2), (1, (minimaxL 4 [none, some X, some X, none, none, some O, some O, some X, none] O X).2), (3, (minimaxL 4 [none, none, some X, some X, none, some O, some O, some X, none] O X).2), (4, (minimaxL 4 [none, none, some X, none, some X, some O, some O, some X, none] O X).2), (8, (minimaxL 4 [none, none, some X, none, none, some O, some O, some X, some X] O X).2)] X = (some 1, 1)
  rw [mmv_1130, mmv_3037, mmv_3000, mmv_3026, mmv_3040]
  rfl

theorem mmv_3047 : minimaxL 3 [none, some X, some X, none, some O, some O, none, some X, some O] X O = (some 0, 1) := rfl

theorem mmv_3046 : minimaxL 4 [none, some X, some X, none, none, some O, none, some X, some O] O X = (some 0, 1) := by
  rw [minimaxL_succ 3 [none, some X, some X, none, none, some O, none, some X, some O] O X [0, 3, 4, 6] rfl rfl (List.cons_ne_nil _ _)]
  show pickBest [(0, (minimaxL 3 [some O, some X, some X, none, none, some O, none, some X, some O] X O).2), (3, (minimaxL 3 [none, some X, some X, some O, none, some O, none, some X, some O] X O).2), (4, (minimaxL 3 [none, some X, some X, none, some O, some O, none, some X, some O] X O).2), (6, (minimaxL 3 [none, some X, some X, none, none, some O, some O, some X, some O] X O).2)] O = (some 0, 1)
  rw [mmv_1305, mmv_2897, mmv_3047, mmv_3039]
  rfl

theorem mmv_3048 : minimaxL 4 [none, none, some X, none, some X, some O, none, some X, some O] O X = (some 0, 1) := by
  rw [minimaxL_succ 3 [none, none, some X, none, some X, some O, none, some X, some O] O X [0, 1, 3, 6] rfl rfl (List.cons_ne_nil _ _)]
  show pickBest [(0, (minimaxL 3 [some O, none, some X, none, some X, some O, none, some X, some O] X O).2), (1, (minimaxL 3 [none, some O, some X, none, some X, some O, none, some X, some O] X O).2), (3, (minimaxL 3 [none, none, some X, some O, some X, some O, none, some X, some O] X O).2), (6, (minimaxL 3 [none, none, some X, none, some X, some O, some O, some X, some O] X O).2)] O = (some 0, 1)
  rw [mmv_2612, mmv_2806, mmv_2886, mmv_3027]
  rfl

theorem mmv_3051 : minimaxL 2 [some X, none, some X, none, some O, some O, some X, some X, some O] O X = (some 3, -1) := rfl

theorem mmv_3052 : minimaxL 2 [none, some X, some X, none, some O, some O, some X, some X, some O] O X = (some 3, -1) := rfl

theorem mmv_3050 : minimaxL 3 [none, none, some X, none, some O, some O, some X, some X, some O] X O = (some 3, -1) := by
  rw [minimaxL_succ 2 [none, none, some X, none, some O, some O, some X, some X, some O] X O [0, 1, 3] rfl rfl (List.cons_ne_nil _ _)]
  show pickBest [(0, (minimaxL 2 [some X, none, some X, none, some O, some O, some X, some X, some O] O X).2), (1, (minimaxL 2 [none, some X, some X, none, some O, some O, some X, some X, some O] O X).2), (3, (minimaxL 2 [none, none, some X, some X, some O, some O, some X, some X, some O] O X).2)] X = (some 3, -1)
  rw [mmv_3051, mmv_3052, mmv_2928]
  rfl

theorem mmv_3049 : minimaxL 4 [none, none, some X, none, none, some O, some X, some X, some O] O X = (some 4, -1) := by
  rw [minimaxL_succ 3 [none, none, some X, none, none, some O, some X, some X, some O] O X [0, 1, 3, 4] rfl rfl (List.cons_ne_nil _ _)]
  show pickBest [(0, (minimaxL 3 [some O, none, some X, none, none, some O, some X, some X, some O] X O).2), (1, (minimaxL 3 [none, some O, some X, none, none, some O, some X, some X, some O] X O).2), (3, (minimaxL 3 [none, none, some X, some O, none, some O, some X, some X, some O] X O).2), (4, (minimaxL 3 [none, none, some X, none, some O, some O, some X, some X, some O] X O).2)] O = (some 4, -1)
  rw [mmv_2615, mmv_2808, mmv_2903, mmv_3050]
  rfl

theorem mmv_3045 : minimaxL 5 [none, none, some X, none, none, some O, none, some X, some O] X O = (some 4, 1) := by
  rw [minimaxL_succ 4 [none, none, some X, none, none, some O, none, some X, some O] X O [0, 1, 3, 4, 6] rfl rfl (List.cons_ne_nil _ _)]
  show pickBest [(0, (minimaxL 4 [some X, none, some X, none, none, some O, none, some X, some O] O X).2), (1, (minimaxL 4 [none, some X, some X, none, none, some O, none, some X, some O] O X).2), (3, (minimaxL 4 [none, none, some X, some X, none, some O, none, some X, some O] O X).2), (4, (minimaxL 4 [none, none, some X, none, some X, some O, none, some X, some O] O X).2), (6, (minimaxL 4 [none, none, some X, none, none, some O, some X, some X, some O] O X).2)] X = (some 4, 1)
  rw [mmv_1140, mmv_3046, mmv_3018, mmv_3048, mmv_3049]
  rfl

theorem mmv_3035 : minimaxL 6 [none, none, some X, none, none, some O, none, some X, none] O X = (some 4, 0) := by
  rw [minimaxL_succ 5 [none, none, some X, none, none, some O, none, some X, none] O X [0, 1, 3, 4, 6, 8] rfl rfl (List.cons_ne_nil _ _)]
  show pickBest [(0, (minimaxL 5 [some O, none, some X, none, none, some O, none, some X, none] X O).2), (1, (minimaxL 5 [none, some O, some X, none, none, some O, none, some X, none] X O).2), (3, (minimaxL 5 [none, none, some X, some O, none, some O, none, some X, none] X O).2), (4, (minimaxL 5 [none, none, some X, none, some O, some O, none, some X, none] X O).2), (6, (minimaxL 5 [none, none, some X, none, none, some O, some O, some X, none] X O).2), (8, (minimaxL 5 [none, none, some X, none, none, some O, none, some X, some O] X O).2)] O = (some 4, 0)
  rw [mmv_2608, mmv_2804, mmv_2882, mmv_2976, mmv_3036, mmv_3045]
  rfl

theorem mmv_3056 : minimaxL 3 [some X, none, some X, some O, none, some O, some O, none, some X] X O = (some 1, 1) := rfl

theorem mmv_3057 : minimaxL 3 [some X, none, some X, none, none, some O, some O, some O, some X] X O = (some 1, 1) := rfl

theorem mmv_3055 : minimaxL 4 [some X, none, some X, none, none, some O, some O, none, some X] O X = (some 1, 1) := by
  rw [minimaxL_succ 3 [some X, none, some X, none, none, some O, some O, none, some X] O X [1, 3, 4, 7] rfl rfl (List.cons_ne_nil _ _)]
  show pickBest [(1, (minimaxL 3 [some X, some O, some X, none, none, some O, some O, none, some X] X O).2), (3, (minimaxL 3 [some X, none, some X, some O, none, some O, some O, none, some X] X O).2), (4, (minimaxL 3 [some X, none, some X, none, some O, some O, some O, none, some X] X O).2), (7, (minimaxL 3 [some X, none, some X, none, none, some O, some O, some O, some X] X O).2)] O = (some 1, 1)
  rw [mmv_0125, mmv_3056, mmv_1060, mmv_3057]
  rfl

theorem mmv_3054 : minimaxL 5 [none, none, some X, none, none, some O, some O, none, some X] X O = (some 0, 1) := by
  rw [minimaxL_succ 4 [none, none, some X, none, none, some O, some O, none, some X] X O [0, 1, 3, 4, 7] rfl rfl (List.cons_ne_nil _ _)]
  show pickBest [(0, (minimaxL 4 [some X, none, some X, none, none, some O, some O, none, some X] O X).2), (1, (minimaxL 4 [none, some X, some X, none, none, some O, some O, none, some X] O X).2), (3, (minimaxL 4 [none, none, some X, some X, none, some O, some O, none, some X] O X).2), (4, (minimaxL 4 [none, none, some X, none, some X, some O, some O, none, some X] O X).2), (7, (minimaxL 4 [none, none, some X, none, none, some O, some O, some X, some X] O X).2)] X = (some 0, 1)
  rw [mmv_3055, mmv_2311, mmv_3003, mmv_3028, mmv_3040]
  rfl

theorem mmv_3060 : minimaxL 3 [some X, none, some X, some O, none, some O, none, some O, some X] X O = (some 1, 1) := rfl

theorem mmv_3061 : minimaxL 3 [some X, none, some X, none, some O, some O, none, some O, some X] X O = (some 1, 1) := rfl

theorem mmv_3059 : minimaxL 4 [some X, none, some X, none, none, some O, none, some O, some X] O X = (some 1, 1) := by
  rw [minimaxL_succ 3 [some X, none, some X, none, none, some O, none, some O, some X] O X [1, 3, 4, 6] rfl rfl (List.cons_ne_nil _ _)]
  show pickBest [(1, (minimaxL 3 [some X, some O, some X, none, none, some O, none, some O, some X] X O).2), (3, (minimaxL 3 [some X, none, some X, some O, none, some O, none, some O, some X] X O).2), (4, (minimaxL 3 [some X, none, some X, none, some O, some O, none, some O, some X] X O).2), (6, (minimaxL 3 [some X, none, some X, none, none, some O, some O, some O, some X] X O).2)] O = (some 1, 1)
  rw [mmv_0126, mmv_3060, mmv_3061, mmv_3057]
  rfl

theorem mmv_3062 : minimaxL 4 [none, none, some X, none, some X, some O, none, some O, some X] O X = (some 0, 1) := by
  rw [minimaxL_succ 3 [none, none, some X, none, some X, some O, none, some O, some X] O X [0, 1, 3, 6] rfl rfl (List.cons_ne_nil _ _)]
  show pickBest [(0, (minimaxL 3 [some O, none, some X, none, some X, some O, none, some O, some X] X O).2), (1, (minimaxL 3 [none, some O, some X, none, some X, some O, none, some O, some X] X O).2), (3, (minimaxL 3 [none, none, some X, some O, some X, some O, none, some O, some X] X O).2), (6, (minimaxL 3 [none, none, some X, none, some X, some O, some O, some O, some X] X O).2)] O = (some 0, 1)
  rw [mmv_2637, mmv_2823, mmv_2910, mmv_3029]
  rfl

theorem mmv_3064 : minimaxL 3 [none, none, some X, some O, none, some O, some X, some O, some X] X O = (some 4, 1) := rfl

theorem mmv_3066 : minimaxL 2 [some X, none, some X, none, some O, some O, some X, some O, some X] O X = (some 3, -1) := rfl

theorem mmv_3065 : minimaxL 3 [none, none, some X, none, some O, some O, some X, some O, some X] X O = (some 3, -1) := by
  rw [minimaxL_succ 2 [none, none, some X, none, some O, some O, some X, some O, some X] X O [0, 1, 3] rfl rfl (List.cons_ne_nil _ _)]
  show pickBest [(0, (minimaxL 2 [some X, none, some X, none, some O, some O, some X, some O, some X] O X).2), (1, (minimaxL 2 [none, some X, some X, none, some O, some O, some X, some O, some X] O X).2), (3, (minimaxL 2 [none, none, some X, some X, some O, some O, some X, some O, some X] O X).2)] X = (some 3, -1)
  rw [mmv_3066, mmv_2203, mmv_2933]
  rfl

theorem mmv_3063 : minimaxL 4 [none, none, some X, none, none, some O, some X, some O, some X] O X = (some 4, -1) := by
  rw [minimaxL_succ 3 [none, none, some X, none, none, some O, some X, some O, some X] O X [0, 1, 3, 4] rfl rfl (List.cons_ne_nil _ _)]
  show pickBest [(0, (minimaxL 3 [some O, none, some X, none, none, some O, some X, some O, some X] X O).2), (1, (minimaxL 3 [none, some O, some X, none, none, some O, some X, some O, some X] X O).2), (3, (minimaxL 3 [none, none, some X, some O, none, some O, some X, some O, some X] X O).2), (4, (minimaxL 3 [none, none, some X, none, some O, some O, some X, some O, some X] X O).2)] O = (some 4, -1)
  rw [mmv_2641, mmv_2827, mmv_3064, mmv_3065]
  rfl

theorem mmv_3058 : minimaxL 5 [none, none, some X, none, none, some O, none, some O, some X] X O = (some 4, 1) := by
  rw [minimaxL_succ 4 [none, none, some X, none, none, some O, none, some O, some X] X O [0, 1, 3, 4, 6] rfl rfl (List.cons_ne_nil _ _)]
  show pickBest [(0, (minimaxL 4 [some X, none, some X, none, none, some O, none, some O, some X] O X).2), (1, (minimaxL 4 [none, some X, some X, none, none, some O, none, some O, some X] O X).2), (3, (minimaxL 4 [none, none, some X, some X, none, some O, none, some O, some X] O X).2), (4, (minimaxL 4 [none, none, some X, none, some X, some O, none, some O, some X] O X).2), (6, (minimaxL 4 [none, none, some X, none, none, some O, some X, some O, some X] O X).2)] X = (some 4, 1)
  rw [mmv_3059, mmv_2321, mmv_3013, mmv_3062, mmv_3063]
  rfl

theorem mmv_3053 : minimaxL 6 [none, none, some X, none, none, some O, none, none, some X] O X = (some 4, 0) := by
  rw [minimaxL_succ 5 [none, none, some X, none, none, some O, none, none, some X] O X [0, 1, 3, 4, 6, 7] rfl rfl (List.cons_ne_nil _ _)]
  show pickBest [(0, (minimaxL 5 [some O, none, some X, none, none, some O, none, none, some X] X O).2), (1, (minimaxL 5 [none, some O, some X, none, none, some O, none, none, some X] X O).2), (3, (minimaxL 5 [none, none, some X, some O, none, some O, none, none, some X] X O).2), (4, (minimaxL 5 [none, none, some X, none, some O, some O, none, none, some X] X O).2), (6, (minimaxL 5 [none, none, some X, none, none, some O, some O, none, some X] X O).2), (7, (minimaxL 5 [none, none, some X, none, none, some O, none, some O, some X] X O).2)] O = (some 4, 0)
  rw [mmv_2632, mmv_2820, mmv_2906, mmv_2987, mmv_3054, mmv_3058]
  rfl

theorem mmv_2990 : minimaxL 7 [none, none, some X, none, none, some O, none, none, none] X O = (some 4, 1) := by
  rw [minimaxL_succ 6 [none, none, some X, none, none, some O, none, none, none] X O [0, 1, 3, 4, 6, 7, 8] rfl rfl (List.cons_ne_nil _ _)]
  show pickBest [(0, (minimaxL 6 [some X, none, some X, none, none, some O, none, none, none] O X).2), (1, (minimaxL 6 [none, some X, some X, none, none, some O, none, none, none] O X).2), (3, (minimaxL 6 [none, none, some X, some X, none, some O, none, none, none] O X).2), (4, (minimaxL 6 [none, none, some X, none, some X, some O, none, none, none] O X).2), (6, (minimaxL 6 [none, none, some X, none, none, some O, some X, none, none] O X).2), (7, (minimaxL 6 [none, none, some X, none, none, some O, none, some X, none] O X).2), (8, (minimaxL 6 [none, none, some X, none, none, some O, none, none, some X] O X).2)] X = (some 4, 1)
  rw [mmv_1075, mmv_2235, mmv_2991, mmv_3019, mmv_3032, mmv_3035, mmv_3053]
  rfl

theorem mmv_3070 : minimaxL 4 [none, none, some X, some X, some X, none, some O, some O, none] O X = (some 8, -1) := rfl

theorem mmv_3071 : minimaxL 4 [none, none, some X, some X, none, some X, some O, some O, none] O X = (some 8, -1) := rfl

theorem mmv_3072 : minimaxL 4 [none, none, some X, some X, none, none, some O, some O, some X] O X = (some 0, 1) := by
  rw [minimaxL_succ 3 [none, none, some X, some X, none, none, some O, some O, some X] O X [0, 1, 4, 5] rfl rfl (List.cons_ne_nil _ _)]
  show pickBest [(0, (minimaxL 3 [some O, none, some X, some X, none, none, some O, some O, some X] X O).2), (1, (minimaxL 3 [none, some O, some X, some X, none, none, some O, some O, some X] X O).2), (4, (minimaxL 3 [none, none, some X, some X, some O, none, some O, some O, some X] X O).2), (5, (minimaxL 3 [none, none, some X, some X, none, some O, some O, some O, some X] X O).2)] O = (some 0, 1)
  rw [mmv_2510, mmv_2704, mmv_2943, mmv_3004]
  rfl

theorem mmv_3069 : minimaxL 5 [none, none, some X, some X, none, none, some O, some O, none] X O = (some 8, 1) := by
  rw [minimaxL_succ 4 [none, none, some X, some X, none, none, some O, some O, none] X O [0, 1, 4, 5, 8] rfl rfl (List.cons_ne_nil _ _)]
  show pickBest [(0, (minimaxL 4 [some X, none, some X, some X, none, none, some O, some O, none] O X).2), (1, (minimaxL 4 [none, some X, some X, some X, none, none, some O, some O, none] O X).2), (4, (minimaxL 4 [none, none, some X, some X, some X, none, some O, some O, none] O X).2), (5, (minimaxL 4 [none, none, some X, some X, none, some X, some O, some O, none] O X).2), (8, (minimaxL 4 [none, none, some X, some X, none, none, some O, some O, some X] O X).2)] X = (some 8, 1)
  rw [mmv_1156, mmv_2328, mmv_3070, mmv_3071, mmv_3072]
  rfl

theorem mmv_3074 : minimaxL 4 [none, none, some X, some X, some X, none, some O, none, some O] O X = (some 7, -1) := rfl

theorem mmv_3075 : minimaxL 4 [none, none, some X, some X, none, some X, some O, none, some O] O X = (some 7, -1) := rfl

theorem mmv_3076 : minimaxL 4 [none, none, some X, some X, none, none, some O, some X, some O] O X = (some 1, 0) := by
  rw [minimaxL_succ 3 [none, none, some X, some X, none, none, some O, some X, some O] O X [0, 1, 4, 5] rfl rfl (List.cons_ne_nil _ _)]
  show pickBest [(0, (minimaxL 3 [some O, none, some X, some X, none, none, some O, some X, some O] X O).2), (1, (minimaxL 3 [none, some O, some X, some X, none, none, some O, some X, some O] X O).2), (4, (minimaxL 3 [none, none, some X, some X, some O, none, some O, some X, some O] X O).2), (5, (minimaxL 3 [none, none, some X, some X, none, some O, some O, some X, some O] X O).2)] O = (some 1, 0)
  rw [mmv_2506, mmv_2699, mmv_2941, mmv_3001]
  rfl

theorem mmv_3073 : minimaxL 5 [none, none, some X, some X, none, none, some O, none, some O] X O = (some 7, 0) := by
  rw [minimaxL_succ 4 [none, none, some X, some X, none, none, some O, none, some O] X O [0, 1, 4, 5, 7] rfl rfl (List.cons_ne_nil _ _)]
  show pickBest [(0, (minimaxL 4 [some X, none, some X, some X, none, none, some O, none, some O] O X).2), (1, (minimaxL 4 [none, some X, some X, some X, none, none, some O, none, some O] O X).2), (4, (minimaxL 4 [none, none, some X, some X, some X, none, some O, none, some O] O X).2), (5, (minimaxL 4 [none, none, some X, some X, none, some X, some O, none, some O] O X).2), (7, (minimaxL 4 [none, none, some X, some X, none, none, some O, some X, some O] O X).2)] X = (some 7, 0)
  rw [mmv_1167, mmv_2333, mmv_3074, mmv_3075, mmv_3076]
  rfl

theorem mmv_3068 : minimaxL 6 [none, none, some X, some X, none, none, some O, none, none] O X = (some 4, 0) := by
  rw [minimaxL_succ 5 [none, none, some X, some X, none, none, some O, none, none] O X [0, 1, 4, 5, 7, 8] rfl rfl (List.cons_ne_nil _ _)]
  show pickBest [(0, (minimaxL 5 [some O, none, some X, some X, none, none, some O, none, none] X O).2), (1, (minimaxL 5 [none, some O, some X, some X, none, none, some O, none, none] X O).2), (4, (minimaxL 5 [none, none, some X, some X, some O, none, some O, none, none] X O).2), (5, (minimaxL 5 [none, none, some X, some X, none, some O, some O, none, none] X O).2), (7, (minimaxL 5 [none, none, some X, some X, none, none, some O, some O, none] X O).2), (8, (minimaxL 5 [none, none, some X, some X, none, none, some O, none, some O] X O).2)] O = (some 4, 0)
  rw [mmv_2494, mmv_2690, mmv_2934, mmv_2992, mmv_3069, mmv_3073]
  rfl

theorem mmv_3079 : minimaxL 4 [some X, none, some X, none, some X, none, some O, some O, none] O X = (some 8, -1) := rfl

theorem mmv_3080 : minimaxL 4 [none, none, some X, none, some X, some X, some O, some O, none] O X = (some 8, -1) := rfl

theorem mmv_3082 : minimaxL 3 [some O, none, some X, none, some X, none, some O, some O, some X] X O = (some 5, 1) := rfl

theorem mmv_3083 : minimaxL 3 [none, none, some X, some O, some X, none, some O, some O, some X] X O = (some 5, 1) := rfl

theorem mmv_3081 : minimaxL 4 [none, none, some X, none, some X, none, some O, some O, some X] O X = (some 0, 1) := by
  rw [minimaxL_succ 3 [none, none, some X, none, some X, none, some O, some O, some X] O X [0, 1, 3, 5] rfl rfl (List.cons_ne_nil _ _)]
  show pickBest [(0, (minimaxL 3 [some O, none, some X, none, some X, none, some O, some O, some X] X O).2), (1, (minimaxL 3 [none, some O, some X, none, some X, none, some O, some O, some X] X O).2), (3, (minimaxL 3 [none, none, some X, some O, some X, none, some O, some O, some X] X O).2), (5, (minimaxL 3 [none, none, some X, none, some X, some O, some O, some O, some X] X O).2)] O = (some 0, 1)
  rw [mmv_3082, mmv_2745, mmv_3083, mmv_3029]
  rfl

theorem mmv_3078 : minimaxL 5 [none, none, some X, none, some X, none, some O, some O, none] X O = (some 8, 1) := by
  rw [minimaxL_succ 4 [none, none, some X, none, some X, none, some O, some O, none] X O [0, 1, 3, 5, 8] rfl rfl (List.cons_ne_nil _ _)]
  show pickBest [(0, (minimaxL 4 [some X, none, some X, none, some X, none, some O, some O, none] O X).2), (1, (minimaxL 4 [none, some X, some X, none, some X, none, some O, some O, none] O X).2), (3, (minimaxL 4 [none, none, some X, some X, some X, none, some O, some O, none] O X).2), (5, (minimaxL 4 [none, none, some X, none, some X, some X, some O, some O, none] O X).2), (8, (minimaxL 4 [none, none, some X, none, some X, none, some O, some O, some X] O X).2)] X = (some 8, 1)
  rw [mmv_3079, mmv_2344, mmv_3070, mmv_3080, mmv_3081]
  rfl

theorem mmv_3085 : minimaxL 4 [none, some X, some X, none, some X, none, some O, none, some O] O X = (some 7, -1) := rfl

theorem mmv_3086 : minimaxL 4 [none, none, some X, none, some X, some X, some O, none, some O] O X = (some 7, -1) := rfl

theorem mmv_3087 : minimaxL 4 [none, none, some X, none, some X, none, some O, some X, some O] O X = (some 1, 0) := by
  rw [minimaxL_succ 3 [none, none, some X, none, some X, none, some O, some X, some O] O X [0, 1, 3, 5] rfl rfl (List.cons_ne_nil _ _)]
  show pickBest [(0, (minimaxL 3 [some O, none, some X, none, some X, none, some O, some X, some O] X O).2), (1, (minimaxL 3 [none, some O, some X, none, some X, none, some O, some X, some O] X O).2), (3, (minimaxL 3 [none, none, some X, some O, some X, none, some O, some X, some O] X O).2), (5, (minimaxL 3 [none, none, some X, none, some X, some O, some O, some X, some O] X O).2)] O = (some 1, 0)
  rw [mmv_2626, mmv_2738, mmv_2900, mmv_3027]
  rfl

theorem mmv_3084 : minimaxL 5 [none, none, some X, none, some X, none, some O, none, some O] X O = (some 7, 0) := by
  rw [minimaxL_succ 4 [none, none, some X, none, some X, none, some O, none, some O] X O [0, 1, 3, 5, 7] rfl rfl (List.cons_ne_nil _ _)]
  show pickBest [(0, (minimaxL 4 [some X, none, some X, none, some X, none, some O, none, some O] O X).2), (1, (minimaxL 4 [none, some X, some X, none, some X, none, some O, none, some O] O X).2), (3, (minimaxL 4 [none, none, some X, some X, some X, none, some O, none, some O] O X).2), (5, (minimaxL 4 [none, none, some X, none, some X, some X, some O, none, some O] O X).2), (7, (minimaxL 4 [none, none, some X, none, some X, none, some O, some X, some O] O X).2)] X = (some 7, 0)
  rw [mmv_1178, mmv_3085, mmv_3074, mmv_3086, mmv_3087]
  rfl

theorem mmv_3077 : minimaxL 6 [none, none, some X, none, some X, none, some O, none, none] O X = (some 0, 0) := by
  rw [minimaxL_succ 5 [none, none, some X, none, some X, none, some O, none, none] O X [0, 1, 3, 5, 7, 8] rfl rfl (List.cons_ne_nil _ _)]
  show pickBest [(0, (minimaxL 5 [some O, none, some X, none, some X, none, some O, none, none] X O).2), (1, (minimaxL 5 [none, some O, some X, none, some X, none, some O, none, none] X O).2), (3, (minimaxL 5 [none, none, some X, some O, some X, none, some O, none, none] X O).2), (5, (minimaxL 5 [none, none, some X, none, some X, some O, some O, none, none] X O).2), (7, (minimaxL 5 [none, none, some X, none, some X, none, some O, some O, none] X O).2), (8, (minimaxL 5 [none, none, some X, none, some X, none, some O, none, some O] X O).2)] O = (some 0, 0)
  rw [mmv_2532, mmv_2724, mmv_2833, mmv_3020, mmv_3078, mmv_3084]
  rfl

theorem mmv_3089 : minimaxL 5 [none, none, some X, none, none, some X, some O, some O, none] X O = (some 8, 1) := rfl

theorem mmv_3093 : minimaxL 2 [some O, some X, some X, none, none, some X, some O, some X, some O] O X = (some 3, -1) := rfl

theorem mmv_3094 : minimaxL 2 [some O, none, some X, none, some X, some X, some O, some X, some O] O X = (some 3, -1) := rfl

theorem mmv_3092 : minimaxL 3 [some O, none, some X, none, none, some X, some O, some X, some O] X O = (some 4, -1) := by
  rw [minimaxL_succ 2 [some O, none, some X, none, none, some X, some O, some X, some O] X O [1, 3, 4] rfl rfl (List.cons_ne_nil _ _)]
  show pickBest [(1, (minimaxL 2 [some O, some X, some X, none, none, some X, some O, some X, some O] O X).2), (3, (minimaxL 2 [some O, none, some X, some X, none, some X, some O, some X, some O] O X).2), (4, (minimaxL 2 [some O, none, some X, none, some X, some X, some O, some X, some O] O X).2)] X = (some 4, -1)
  rw [mmv_3093, mmv_2508, mmv_3094]
  rfl

theorem mmv_3091 : minimaxL 4 [none, none, some X, none, none, some X, some O, some X, some O] O X = (some 0, -1) := by
  rw [minimaxL_succ 3 [none, none, some X, none, none, some X, some O, some X, some O] O X [0, 1, 3, 4] rfl rfl (List.cons_ne_nil _ _)]
  show pickBest [(0, (minimaxL 3 [some O, none, some X, none, none, some X, some O, some X, some O] X O).2), (1, (minimaxL 3 [none, some O, some X, none, none, some X, some O, some X, some O] X O).2), (3, (minimaxL 3 [none, none, some X, some O, none, some X, some O, some X, some O] X O).2), (4, (minimaxL 3 [none, none, some X, none, some O, some X, some O, some X, some O] X O).2)] O = (some 0, -1)
  rw [mmv_3092, mmv_2770, mmv_2863, mmv_2981]
  rfl

theorem mmv_3090 : minimaxL 5 [none, none, some X, none, none, some X, some O, none, some O] X O = (some 7, -1) := by
  rw [minimaxL_succ 4 [none, none, some X, none, none, some X, some O, none, some O] X O [0, 1, 3, 4, 7] rfl rfl (List.cons_ne_nil _ _)]
  show pickBest [(0, (minimaxL 4 [some X, none, some X, none, none, some X, some O, none, some O] O X).2), (1, (minimaxL 4 [none, some X, some X, none, none, some X, some O, none, some O] O X).2), (3, (minimaxL 4 [none, none, some X, some X, none, some X, some O, none, some O] O X).2), (4, (minimaxL 4 [none, none, some X, none, some X, some X, some O, none, some O] O X).2), (7, (minimaxL 4 [none, none, some X, none, none, some X, some O, some X, some O] O X).2)] X = (some 7, -1)
  rw [mmv_1190, mmv_2353, mmv_3075, mmv_3086, mmv_3091]
  rfl

theorem mmv_3088 : minimaxL 6 [none, none, some X, none, none, some X, some O, none, none] O X = (some 8, -1) := by
  rw [minimaxL_succ 5 [none, none, some X, none, none, some X, some O, none, none] O X [0, 1, 3, 4, 7, 8] rfl rfl (List.cons_ne_nil _ _)]
  show pickBest [(0, (minimaxL 5 [some O, none, some X, none, none, some X, some O, none, none] X O).2), (1, (minimaxL 5 [none, some O, some X, none, none, some X, some O, none, none] X O).2), (3, (minimaxL 5 [none, none, some X, some O, none, some X, some O, none, none] X O).2), (4, (minimaxL 5 [none, none, some X, none, some O, some X, some O, none, none] X O).2), (7, (minimaxL 5 [none, none, some X, none, none, some X, some O, some O, none] X O).2), (8, (minimaxL 5 [none, none, some X, none, none, some X, some O, none, some O] X O).2)] O = (some 8, -1)
  rw [mmv_2542, mmv_2751, mmv_2845, mmv_2956, mmv_3089, mmv_3090]
  rfl

theorem mmv_3098 : minimaxL 3 [some O, some X, some X, none, none, none, some O, some X, some O] X O = (some 4, 1) := rfl

theorem mmv_3097 : minimaxL 4 [none, some X, some X, none, none, none, some O, some X, some O] O X = (some 0, 1) := by
  rw [minimaxL_succ 3 [none, some X, some X, none, none, none, some O, some X, some O] O X [0, 3, 4, 5] rfl rfl (List.cons_ne_nil _ _)]
  show pickBest [(0, (minimaxL 3 [some O, some X, some X, none, none, none, some O, some X, some O] X O).2), (3, (minimaxL 3 [none, some X, some X, some O, none, none, some O, some X, some O] X O).2), (4, (minimaxL 3 [none, some X, some X, none, some O, none, some O, some X, some O] X O).2), (5, (minimaxL 3 [none, some X, some X, none, none, some O, some O, some X, some O] X O).2)] O = (some 0, 1)
  rw [mmv_3098, mmv_2898, mmv_2219, mmv_3039]
  rfl

theorem mmv_3096 : minimaxL 5 [none, none, some X, none, none, none, some O, some X, some O] X O = (some 1, 1) := by
  rw [minimaxL_succ 4 [none, none, some X, none, none, none, some O, some X, some O] X O [0, 1, 3, 4, 5] rfl rfl (List.cons_ne_nil _ _)]
  show pickBest [(0, (minimaxL 4 [some X, none, some X, none, none, none, some O, some X, some O] O X).2), (1, (minimaxL 4 [none, some X, some X, none, none, none, some O, some X, some O] O X).2), (3, (minimaxL 4 [none, none, some X, some X, none, none, some O, some X, some O] O X).2), (4, (minimaxL 4 [none, none, some X, none, some X, none, some O, some X, some O] O X).2), (5, (minimaxL 4 [none, none, some X, none, none, some X, some O, some X, some O] O X).2)] X = (some 1, 1)
  rw [mmv_1196, mmv_3097, mmv_3076, mmv_3087, mmv_3091]
  rfl

theorem mmv_3095 : minimaxL 6 [none, none, some X, none, none, none, some O, some X, none] O X = (some 0, 0) := by
  rw [minimaxL_succ 5 [none, none, some X, none, none, none, some O, some X, none] O X [0, 1, 3, 4, 5, 8] rfl rfl (List.cons_ne_nil _ _)]
  show pickBest [(0, (minimaxL 5 [some O, none, some X, none, none, none, some O, some X, none] X O).2), (1, (minimaxL 5 [none, some O, some X, none, none, none, some O, some X, none] X O).2), (3, (minimaxL 5 [none, none, some X, some O, none, none, some O, some X, none] X O).2), (4, (minimaxL 5 [none, none, some X, none, some O, none, some O, some X, none] X O).2), (5, (minimaxL 5 [none, none, some X, none, none, some O, some O, some X, none] X O).2), (8, (minimaxL 5 [none, none, some X, none, none, none, some O, some X, some O] X O).2)] O = (some 0, 0)
  rw [mmv_2620, mmv_2811, mmv_2889, mmv_2978, mmv_3036, mmv_3096]
  rfl

theorem mmv_3100 : minimaxL 5 [none, none, some X, none, none, none, some O, some O, some X] X O = (some 5, 1) := rfl

theorem mmv_3099 : minimaxL 6 [none, none, some X, none, none, none, some O, none, some X] O X = (some 0, 1) := by
  rw [minimaxL_succ 5 [none, none, some X, none, none, none, some O, none, some X] O X [0, 1, 3, 4, 5, 7] rfl rfl (List.cons_ne_nil _ _)]
  show pickBest [(0, (minimaxL 5 [some O, none, some X, none, none, none, some O, none, some X] X O).2), (1, (minimaxL 5 [none, some O, some X, none, none, none, some O, none, some X] X O).2), (3, (minimaxL 5 [none, none, some X, some O, none, none, some O, none, some X] X O).2), (4, (minimaxL 5 [none, none, some X, none, some O, none, some O, none, some X] X O).2), (5, (minimaxL 5 [none, none, some X, none, none, some O, some O, none, some X] X O).2), (7, (minimaxL 5 [none, none, some X, none, none, none, some O, some O, some X] X O).2)] O = (some 0, 1)
  rw [mmv_2642, mmv_2828, mmv_2912, mmv_2988, mmv_3054, mmv_3100]
  rfl

theorem mmv_3067 : minimaxL 7 [none, none, some X, none, none, none, some O, none, none] X O = (some 8, 1) := by
  rw [minimaxL_succ 6 [none, none, some X, none, none, none, some O, none, none] X O [0, 1, 3, 4, 5, 7, 8] rfl rfl (List.cons_ne_nil _ _)]
  show pickBest [(0, (minimaxL 6 [some X, none, some X, none, none, none, some O, none, none] O X).2), (1, (minimaxL 6 [none, some X, some X, none, none, none, some O, none, none] O X).2), (3, (minimaxL 6 [none, none, some X, some X, none, none, some O, none, none] O X).2), (4, (minimaxL 6 [none, none, some X, none, some X, none, some O, none, none] O X).2), (5, (minimaxL 6 [none, none, some X, none, none, some X, some O, none, none] O X).2), (7, (minimaxL 6 [none, none, some X, none, none, none, some O, some X, none] O X).2), (8, (minimaxL 6 [none, none, some X, none, none, none, some O, none, some X] O X).2)] X = (some 8, 1)
  rw [mmv_1150, mmv_2323, mmv_3068, mmv_3077, mmv_3088, mmv_3095, mmv_3099]
  rfl

theorem mmv_3104 : minimaxL 4 [some X, none, some X, some X, none, none, none, some O, some O] O X = (some 6, -1) := rfl

theorem mmv_3105 : minimaxL 4 [none, none, some X, some X, some X, none, none, some O, some O] O X = (some 6, -1) := rfl

theorem mmv_3106 : minimaxL 4 [none, none, some X, some X, none, some X, none, some O, some O] O X = (some 6, -1) := rfl

theorem mmv_3108 : minimaxL 3 [none, none, some X, some X, some O, none, some X, some O, some O] X O = (some 0, 1) := rfl

theorem mmv_3107 : minimaxL 4 [none, none, some X, some X, none, none, some X, some O, some O] O X = (some 0, 1) := by
  rw [minimaxL_succ 3 [none, none, some X, some X, none, none, some X, some O, some O] O X [0, 1, 4, 5] rfl rfl (List.cons_ne_nil _ _)]
  show pickBest [(0, (minimaxL 3 [some O, none, some X, some X, none, none, some X, some O, some O] X O).2), (1, (minimaxL 3 [none, some O, some X, some X, none, none, some X, some O, some O] X O).2), (4, (minimaxL 3 [none, none, some X, some X, some O, none, some X, some O, some O] X O).2), (5, (minimaxL 3 [none, none, some X, some X, none, some O, some X, some O, some O] X O).2)] O = (some 0, 1)
  rw [mmv_2521, mmv_2719, mmv_3108, mmv_3012]
  rfl

theorem mmv_3103 : minimaxL 5 [none, none, some X, some X, none, none, none, some O, some O] X O = (some 6, 1) := by
  rw [minimaxL_succ 4 [none, none, some X, some X, none, none, none, some O, some O] X O [0, 1, 4, 5, 6] rfl rfl (List.cons_ne_nil _ _)]
  show pickBest [(0, (minimaxL 4 [some X, none, some X, some X, none, none, none, some O, some O] O X).2), (1, (minimaxL 4 [none, some X, some X, some X, none, none, none, some O, some O] O X).2), (4, (minimaxL 4 [none, none, some X, some X, some X, none, none, some O, some O] O X).2), (5, (minimaxL 4 [none, none, some X, some X, none, some X, none, some O, some O] O X).2), (6, (minimaxL 4 [none, none, some X, some X, none, none, some X, some O, some O] O X).2)] X = (some 6, 1)
  rw [mmv_3104, mmv_2371, mmv_3105, mmv_3106, mmv_3107]
  rfl

theorem mmv_3102 : minimaxL 6 [none, none, some X, some X, none, none, none, some O, none] O X = (some 4, 0) := by
  rw [minimaxL_succ 5 [none, none, some X, some X, none, none, none, some O, none] O X [0, 1, 4, 5, 6, 8] rfl rfl (List.cons_ne_nil _ _)]
  show pickBest [(0, (minimaxL 5 [some O, none, some X, some X, none, none, none, some O, none] X O).2), (1, (minimaxL 5 [none, some O, some X, some X, none, none, none, some O, none] X O).2), (4, (minimaxL 5 [none, none, some X, some X, some O, none, none, some O, none] X O).2), (5, (minimaxL 5 [none, none, some X, some X, none, some O, none, some O, none] X O).2), (6, (minimaxL 5 [none, none, some X, some X, none, none, some O, some O, none] X O).2), (8, (minimaxL 5 [none, none, some X, some X, none, none, none, some O, some O] X O).2)] O = (some 4, 0)
  rw [mmv_2511, mmv_2705, mmv_2944, mmv_3006, mmv_3069, mmv_3103]
  rfl

theorem mmv_3110 : minimaxL 5 [none, none, some X, none, some X, none, none, some O, some O] X O = (some 6, 1) := rfl

theorem mmv_3109 : minimaxL 6 [none, none, some X, none, some X, none, none, some O, none] O X = (some 0, 1) := by
  rw [minimaxL_succ 5 [none, none, some X, none, some X, none, none, some O, none] O X [0, 1, 3, 5, 6, 8] rfl rfl (List.cons_ne_nil _ _)]
  show pickBest [(0, (minimaxL 5 [some O, none, some X, none, some X, none, none, some O, none] X O).2), (1, (minimaxL 5 [none, some O, some X, none, some X, none, none, some O, none] X O).2), (3, (minimaxL 5 [none, none, some X, some O, some X, none, none, some O, none] X O).2), (5, (minimaxL 5 [none, none, some X, none, some X, some O, none, some O, none] X O).2), (6, (minimaxL 5 [none, none, some X, none, some X, none, some O, some O, none] X O).2), (8, (minimaxL 5 [none, none, some X, none, some X, none, none, some O, some O] X O).2)] O = (some 0, 1)
  rw [mmv_2536, mmv_2746, mmv_2841, mmv_3030, mmv_3078, mmv_3110]
  rfl

theorem mmv_3113 : minimaxL 4 [none, none, some X, none, some X, some X, none, some O, some O] O X = (some 6, -1) := rfl

theorem mmv_3115 : minimaxL 3 [some O, none, some X, none, none, some X, some X, some O, some O] X O = (some 4, 1) := rfl

theorem mmv_3117 : minimaxL 2 [some X, none, some X, none, some O, some X, some X, some O, some O] O X = (some 1, -1) := rfl

theorem mmv_3118 : minimaxL 2 [none, none, some X, some X, some O, some X, some X, some O, some O] O X = (some 1, -1) := rfl

theorem mmv_3116 : minimaxL 3 [none, none, some X, none, some O, some X, some X, some O, some O] X O = (some 3, -1) := by
  rw [minimaxL_succ 2 [none, none, some X, none, some O, some X, some X, some O, some O] X O [0, 1, 3] rfl rfl (List.cons_ne_nil _ _)]
  show pickBest [(0, (minimaxL 2 [some X, none, some X, none, some O, some X, some X, some O, some O] O X).2), (1, (minimaxL 2 [none, some X, some X, none, some O, some X, some X, some O, some O] O X).2), (3, (minimaxL 2 [none, none, some X, some X, some O, some X, some X, some O, some O] O X).2)] X = (some 3, -1)
  rw [mmv_3117, mmv_2180, mmv_3118]
  rfl

theorem mmv_3114 : minimaxL 4 [none, none, some X, none, none, some X, some X, some O, some O] O X = (some 4, -1) := by
  rw [minimaxL_succ 3 [none, none, some X, none, none, some X, some X, some O, some O] O X [0, 1, 3, 4] rfl rfl (List.cons_ne_nil _ _)]
  show pickBest [(0, (minimaxL 3 [some O, none, some X, none, none, some X, some X, some O, some O] X O).2), (1, (minimaxL 3 [none, some O, some X, none, none, some X, some X, some O, some O] X O).2), (3, (minimaxL 3 [none, none, some X, some O, none, some X, some X, some O, some O] X O).2), (4, (minimaxL 3 [none, none, some X, none, some O, some X, some X, some O, some O] X O).2)] O = (some 4, -1)
  rw [mmv_3115, mmv_2762, mmv_2857, mmv_3116]
  rfl

theorem mmv_3112 : minimaxL 5 [none, none, some X, none, none, some X, none, some O, some O] X O = (some 6, -1) := by
  rw [minimaxL_succ 4 [none, none, some X, none, none, some X, none, some O, some O] X O [0, 1, 3, 4, 6] rfl rfl (List.cons_ne_nil _ _)]
  show pickBest [(0, (minimaxL 4 [some X, none, some X, none, none, some X, none, some O, some O] O X).2), (1, (minimaxL 4 [none, some X, some X, none, none, some X, none, some O, some O] O X).2), (3, (minimaxL 4 [none, none, some X, some X, none, some X, none, some O, some O] O X).2), (4, (minimaxL 4 [none, none, some X, none, some X, some X, none, some O, some O] O X).2), (6, (minimaxL 4 [none, none, some X, none, none, some X, some X, some O, some O] O X).2)] X = (some 6, -1)
  rw [mmv_1218, mmv_2382, mmv_3106, mmv_3113, mmv_3114]
  rfl

theorem mmv_3111 : minimaxL 6 [none, none, some X, none, none, some X, none, some O, none] O X = (some 8, -1) := by
  rw [minimaxL_succ 5 [none, none, some X, none, none, some X, none, some O, none] O X [0, 1, 3, 4, 6, 8] rfl rfl (List.cons_ne_nil _ _)]
  show pickBest [(0, (minimaxL 5 [some O, none, some X, none, none, some X, none, some O, none] X O).2), (1, (minimaxL 5 [none, some O, some X, none, none, some X, none, some O, none] X O).2), (3, (minimaxL 5 [none, none, some X, some O, none, some X, none, some O, none] X O).2), (4, (minimaxL 5 [none, none, some X, none, some O, some X, none, some O, none] X O).2), (6, (minimaxL 5 [none, none, some X, none, none, some X, some O, some O, none] X O).2), (8, (minimaxL 5 [none, none, some X, none, none, some X, none, some O, some O] X O).2)] O = (some 8, -1)
  rw [mmv_2543, mmv_2752, mmv_2846, mmv_2957, mmv_3089, mmv_3112]
  rfl

theorem mmv_3120 : minimaxL 5 [none, none, some X, none, none, none, some X, some O, some O] X O = (some 4, 1) := rfl

theorem mmv_3119 : minimaxL 6 [none, none, some X, none, none, none, some X, some O, none] O X = (some 4, 0) := by
  rw [minimaxL_succ 5 [none, none, some X, none, none, none, some X, some O, none] O X [0, 1, 3, 4, 5, 8] rfl rfl (List.cons_ne_nil _ _)]
  show pickBest [(0, (minimaxL 5 [some O, none, some X, none, none, none, some X, some O, none] X O).2), (1, (minimaxL 5 [none, some O, some X, none, none, none, some X, some O, none] X O).2), (3, (minimaxL 5 [none, none, some X, some O, none, none, some X, some O, none] X O).2), (4, (minimaxL 5 [none, none, some X, none, some O, none, some X, some O, none] X O).2), (5, (minimaxL 5 [none, none, some X, none, none, some O, some X, some O, none] X O).2), (8, (minimaxL 5 [none, none, some X, none, none, none, some X, some O, some O] X O).2)] O = (some 4, 0)
  rw [mmv_2564, mmv_2781, mmv_2874, mmv_2966, mmv_3033, mmv_3120]
  rfl

theorem mmv_3121 : minimaxL 6 [none, none, some X, none, none, none, none, some O, some X] O X = (some 0, 1) := by
  rw [minimaxL_succ 5 [none, none, some X, none, none, none, none, some O, some X] O X [0, 1, 3, 4, 5, 6] rfl rfl (List.cons_ne_nil _ _)]
  show pickBest [(0, (minimaxL 5 [some O, none, some X, none, none, none, none, some O, some X] X O).2), (1, (minimaxL 5 [none, some O, some X, none, none, none, none, some O, some X] X O).2), (3, (minimaxL 5 [none, none, some X, some O, none, none, none, some O, some X] X O).2), (4, (minimaxL 5 [none, none, some X, none, some O, none, none, some O, some X] X O).2), (5, (minimaxL 5 [none, none, some X, none, none, some O, none, some O, some X] X O).2), (6, (minimaxL 5 [none, none, some X, none, none, none, some O, some O, some X] X O).2)] O = (some 0, 1)
  rw [mmv_2643, mmv_2829, mmv_2913, mmv_2989, mmv_3058, mmv_3100]
  rfl

theorem mmv_3101 : minimaxL 7 [none, none, some X, none, none, none, none, some O, none] X O = (some 8, 1) := by
  rw [minimaxL_succ 6 [none, none, some X, none, none, none, none, some O, none] X O [0, 1, 3, 4, 5, 6, 8] rfl rfl (List.cons_ne_nil _ _)]
  show pickBest [(0, (minimaxL 6 [some X, none, some X, none, none, none, none, some O, none] O X).2), (1, (minimaxL 6 [none, some X, some X, none, none, none, none, some O, none] O X).2), (3, (minimaxL 6 [none, none, some X, some X, none, none, none, some O, none] O X).2), (4, (minimaxL 6 [none, none, some X, none, some X, none, none, some O, none] O X).2), (5, (minimaxL 6 [none, none, some X, none, none, some X, none, some O, none] O X).2), (6, (minimaxL 6 [none, none, some X, none, none, none, some X, some O, none] O X).2), (8, (minimaxL 6 [none, none, some X, none, none, none, none, some O, some X] O X).2)] X = (some 8, 1)
  rw [mmv_1202, mmv_2366, mmv_3102, mmv_3109, mmv_3111, mmv_3119, mmv_3121]
  rfl

theorem mmv_3123 : minimaxL 6 [none, none, some X, some X, none, none, none, none, some O] O X = (some 6, 0) := by
  rw [minimaxL_succ 5 [none, none, some X, some X, none, none, none, none, some O] O X [0, 1, 4, 5, 6, 7] rfl rfl (List.cons_ne_nil _ _)]
  show pickBest [(0, (minimaxL 5 [some O, none, some X, some X, none, none, none, none, some O] X O).2), (1, (minimaxL 5 [none, some O, some X, some X, none, none, none, none, some O] X O).2), (4, (minimaxL 5 [none, none, some X, some X, some O, none, none, none, some O] X O).2), (5, (minimaxL 5 [none, none, some X, some X, none, some O, none, none, some O] X O).2), (6, (minimaxL 5 [none, none, some X, some X, none, none, some O, none, some O] X O).2), (7, (minimaxL 5 [none, none, some X, some X, none, none, none, some O, some O] X O).2)] O = (some 6, 0)
  rw [mmv_2523, mmv_2711, mmv_2949, mmv_3014, mmv_3073, mmv_3103]
  rfl

theorem mmv_3124 : minimaxL 6 [none, none, some X, none, some X, none, none, none, some O] O X = (some 6, 0) := by
  rw [minimaxL_succ 5 [none, none, some X, none, some X, none, none, none, some O] O X [0, 1, 3, 5, 6, 7] rfl rfl (List.cons_ne_nil _ _)]
  show pickBest [(0, (minimaxL 5 [some O, none, some X, none, some X, none, none, none, some O] X O).2), (1, (minimaxL 5 [none, some O, some X, none, some X, none, none, none, some O] X O).2), (3, (minimaxL 5 [none, none, some X, some O, some X, none, none, none, some O] X O).2), (5, (minimaxL 5 [none, none, some X, none, some X, some O, none, none, some O] X O).2), (6, (minimaxL 5 [none, none, some X, none, some X, none, some O, none, some O] X O).2), (7, (minimaxL 5 [none, none, some X, none, some X, none, none, some O, some O] X O).2)] O = (some 6, 0)
  rw [mmv_2537, mmv_2747, mmv_2842, mmv_3031, mmv_3084, mmv_3110]
  rfl

theorem mmv_3125 : minimaxL 6 [none, none, some X, none, none, some X, none, none, some O] O X = (some 6, -1) := by
  rw [minimaxL_succ 5 [none, none, some X, none, none, some X, none, none, some O] O X [0, 1, 3, 4, 6, 7] rfl rfl (List.cons_ne_nil _ _)]
  show pickBest [(0, (minimaxL 5 [some O, none, some X, none, none, some X, none, none, some O] X O).2), (1, (minimaxL 5 [none, some O, some X, none, none, some X, none, none, some O] X O).2), (3, (minimaxL 5 [none, none, some X, some O, none, some X, none, none, some O] X O).2), (4, (minimaxL 5 [none, none, some X, none, some O, some X, none, none, some O] X O).2), (6, (minimaxL 5 [none, none, some X, none, none, some X, some O, none, some O] X O).2), (7, (minimaxL 5 [none, none, some X, none, none, some X, none, some O, some O] X O).2)] O = (some 6, -1)
  rw [mmv_2544, mmv_2753, mmv_2847, mmv_2958, mmv_3090, mmv_3112]
  rfl

theorem mmv_3126 : minimaxL 6 [none, none, some X, none, none, none, some X, none, some O] O X = (some 0, 1) := by
  rw [minimaxL_succ 5 [none, none, some X, none, none, none, some X, none, some O] O X [0, 1, 3, 4, 5, 7] rfl rfl (List.cons_ne_nil _ _)]
  show pickBest [(0, (minimaxL 5 [some O, none, some X, none, none, none, some X, none, some O] X O).2), (1, (minimaxL 5 [none, some O, some X, none, none, none, some X, none, some O] X O).2), (3, (minimaxL 5 [none, none, some X, some O, none, none, some X, none, some O] X O).2), (4, (minimaxL 5 [none, none, some X, none, some O, none, some X, none, some O] X O).2), (5, (minimaxL 5 [none, none, some X, none, none, some O, some X, none, some O] X O).2), (7, (minimaxL 5 [none, none, some X, none, none, none, some X, some O, some O] X O).2)] O = (some 0, 1)
  rw [mmv_2565, mmv_2782, mmv_2875, mmv_2970, mmv_3034, mmv_3120]
  rfl

theorem mmv_3127 : minimaxL 6 [none, none, some X, none, none, none, none, some X, some O] O X = (some 1, 0) := by
  rw [minimaxL_succ 5 [none, none, some X, none, none, none, none, some X, some O] O X [0, 1, 3, 4, 5, 6] rfl rfl (List.cons_ne_nil _ _)]
  show pickBest [(0, (minimaxL 5 [some O, none, some X, none, none, none, none, some X, some O] X O).2), (1, (minimaxL 5 [none, some O, some X, none, none, none, none, some X, some O] X O).2), (3, (minimaxL 5 [none, none, some X, some O, none, none, none, some X, some O] X O).2), (4, (minimaxL 5 [none, none, some X, none, some O, none, none, some X, some O] X O).2), (5, (minimaxL 5 [none, none, some X, none, none, some O, none, some X, some O] X O).2), (6, (minimaxL 5 [none, none, some X, none, none, none, some O, some X, some O] X O).2)] O = (some 1, 0)
  rw [mmv_2623, mmv_2814, mmv_2893, mmv_2985, mmv_3045, mmv_3096]
  rfl

theorem mmv_3122 : minimaxL 7 [none, none, some X, none, none, none, none, none, some O] X O = (some 6, 1) := by
  rw [minimaxL_succ 6 [none, none, some X, none, none, none, none, none, some O] X O [0, 1, 3, 4, 5, 6, 7] rfl rfl (List.cons_ne_nil _ _)]
  show pickBest [(0, (minimaxL 6 [some X, none, some X, none, none, none, none, none, some O] O X).2), (1, (minimaxL 6 [none, some X, some X, none, none, none, none, none, some O] O X).2), (3, (minimaxL 6 [none, none, some X, some X, none, none, none, none, some O] O X).2), (4, (minimaxL 6 [none, none, some X, none, some X, none, none, none, some O] O X).2), (5, (minimaxL 6 [none, none, some X, none, none, some X, none, none, some O] O X).2), (6, (minimaxL 6 [none, none, some X, none, none, none, some X, none, some O] O X).2), (7, (minimaxL 6 [none, none, some X, none, none, none, none, some X, some O] O X).2)] X = (some 6, 1)
  rw [mmv_1226, mmv_2390, mmv_3123, mmv_3124, mmv_3125, mmv_3126, mmv_3127]
  rfl

theorem mmv_2396 : minimaxL 8 [none, none, some X, none, none, none, none, none, none] O X = (some 4, 0) := by
  rw [minimaxL_succ 7 [none, none, some X, none, none, none, none, none, none] O X [0, 1, 3, 4, 5, 6, 7, 8] rfl rfl (List.cons_ne_nil _ _)]
  show pickBest [(0, (minimaxL 7 [some O, none, some X, none, none, none, none, none, none] X O).2), (1, (minimaxL 7 [none, some O, some X, none, none, none, none, none, none] X O).2), (3, (minimaxL 7 [none, none, some X, some O, none, none, none, none, none] X O).2), (4, (minimaxL 7 [none, none, some X, none, some O, none, none, none, none] X O).2), (5, (minimaxL 7 [none, none, some X, none, none, some O, none, none, none] X O).2), (6, (minimaxL 7 [none, none, some X, none, none, none, some O, none, none] X O).2), (7, (minimaxL 7 [none, none, some X, none, none, none, none, some O, none] X O).2), (8, (minimaxL 7 [none, none, some X, none, none, none, none, none, some O] X O).2)] O = (some 4, 0)
  rw [mmv_2397, mmv_2644, mmv_2830, mmv_2914, mmv_2990, mmv_3067, mmv_3101, mmv_3122]
  rfl

theorem mmv_3131 : minimaxL 5 [some O, some O, none, some X, some X, none, none, none, none] X O = (some 5, 1) := rfl

theorem mmv_3132 : minimaxL 5 [some O, none, some O, some X, some X, none, none, none, none] X O = (some 5, 1) := rfl

theorem mmv_3135 : minimaxL 3 [some O, some O, none, some X, some X, some O, some X, none, none] X O = (some 2, 1) := rfl

theorem mmv_3137 : minimaxL 2 [some O, none, some O, some X, some X, some O, some X, some X, none] O X = (some 1, -1) := rfl

theorem mmv_3138 : minimaxL 2 [some O, none, some O, some X, some X, some O, some X, none, some X] O X = (some 1, -1) := rfl

theorem mmv_3136 : minimaxL 3 [some O, none, some O, some X, some X, some O, some X, none, none] X O = (some 8, -1) := by
  rw [minimaxL_succ 2 [some O, none, some O, some X, some X, some O, some X, none, none] X O [1, 7, 8] rfl rfl (List.cons_ne_nil _ _)]
  show pickBest [(1, (minimaxL 2 [some O, some X, some O, some X, some X, some O, some X, none, none] O X).2), (7, (minimaxL 2 [some O, none, some O, some X, some X, some O, some X, some X, none] O X).2), (8, (minimaxL 2 [some O, none, some O, some X, some X, some O, some X, none, some X] O X).2)] X = (some 8, -1)
  rw [mmv_1403, mmv_3137, mmv_3138]
  rfl

theorem mmv_3139 : minimaxL 3 [some O, none, none, some X, some X, some O, some X, some O, none] X O = (some 2, 1) := rfl

theorem mmv_3140 : minimaxL 3 [some O, none, none, some X, some X, some O, some X, none, some O] X O = (some 2, 1) := rfl

theorem mmv_3134 : minimaxL 4 [some O, none, none, some X, some X, some O, some X, none, none] O X = (some 2, -1) := by
  rw [minimaxL_succ 3 [some O, none, none, some X, some X, some O, some X, none, none] O X [1, 2, 7, 8] rfl rfl (List.cons_ne_nil _ _)]
  show pickBest [(1, (minimaxL 3 [some O, some O, none, some X, some X, some O, some X, none, none] X O).2), (2, (minimaxL 3 [some O, none, some O, some X, some X, some O, some X, none, none] X O).2), (7, (minimaxL 3 [some O, none, none, some X, some X, some O, some X, some O, none] X O).2), (8, (minimaxL 3 [some O, none, none, some X, some X, some O, some X, none, some O] X O).2)] O = (some 2, -1)
  rw [mmv_3135, mmv_3136, mmv_3139, mmv_3140]
  rfl

theorem mmv_3143 : minimaxL 2 [some O, some O, none, some X, some X, some O, some X, some X, none] O X = (some 2, -1) := rfl

theorem mmv_3144 : minimaxL 2 [some O, some O, none, some X, some X, some O, none, some X, some X] O X = (some 2, -1) := rfl

theorem mmv_3142 : minimaxL 3 [some O, some O, none, some X, some X, some O, none, some X, none] X O = (some 2, 0) := by
  rw [minimaxL_succ 2 [some O, some O, none, some X, some X, some O, none, some X, none] X O [2, 6, 8] rfl rfl (List.cons_ne_nil _ _)]
  show pickBest [(2, (minimaxL 2 [some O, some O, some X, some X, some X, some O, none, some X, none] O X).2), (6, (minimaxL 2 [some O, some O, none, some X, some X, some O, some X, some X, none] O X).2), (8, (minimaxL 2 [some O, some O, none, some X, some X, some O, none, some X, some X] O X).2)] X = (some 2, 0)
  rw [mmv_2425, mmv_3143, mmv_3144]
  rfl

theorem mmv_3145 : minimaxL 3 [some O, none, some O, some X, some X, some O, none, some X, none] X O = (some 1, 1) := rfl

theorem mmv_3146 : minimaxL 3 [some O, none, none, some X, some X, some O, some O, some X, none] X O = (some 1, 1) := rfl

theorem mmv_3147 : minimaxL 3 [some O, none, none, some X, some X, some O, none, some X, some O] X O = (some 1, 1) := rfl

theorem mmv_3141 : minimaxL 4 [some O, none, none, some X, some X, some O, none, some X, none] O X = (some 1, 0) := by
  rw [minimaxL_succ 3 [some O, none, none, some X, some X, some O, none, some X, none] O X [1, 2, 6, 8] rfl rfl (List.cons_ne_nil _ _)]
  show pickBest [(1, (minimaxL 3 [some O, some O, none, some X, some X, some O, none, some X, none] X O).2), (2, (minimaxL 3 [some O, none, some O, some X, some X, some O, none, some X, none] X O).2), (6, (minimaxL 3 [some O, none, none, some X, some X, some O, some O, some X, none] X O).2), (8, (minimaxL 3 [some O, none, none, some X, some X, some O, none, some X, some O] X O).2)] O = (some 1, 0)
  rw [mmv_3142, mmv_3145, mmv_3146, mmv_3147]
  rfl

theorem mmv_3150 : minimaxL 2 [some O, some O, none, some X, some X, some O, some X, none, some X] O X = (some 2, -1) := rfl

theorem mmv_3149 : minimaxL 3 [some O, some O, none, some X, some X, some O, none, none, some X] X O = (some 2, 0) := by
  rw [minimaxL_succ 2 [some O, some O, none, some X, some X, some O, none, none, some X] X O [2, 6, 7] rfl rfl (List.cons_ne_nil _ _)]
  show pickBest [(2, (minimaxL 2 [some O, some O, some X, some X, some X, some O, none, none, some X] O X).2), (6, (minimaxL 2 [some O, some O, none, some X, some X, some O, some X, none, some X] O X).2), (7, (minimaxL 2 [some O, some O, none, some X, some X, some O, none, some X, some X] O X).2)] X = (some 2, 0)
  rw [mmv_2448, mmv_3150, mmv_3144]
  rfl

theorem mmv_3152 : minimaxL 2 [some O, none, some O, some X, some X, some O, none, some X, some X] O X = (some 1, -1) := rfl

theorem mmv_3151 : minimaxL 3 [some O, none, some O, some X, some X, some O, none, none, some X] X O = (some 1, 0) := by
  rw [minimaxL_succ 2 [some O, none, some O, some X, some X, some O, none, none, some X] X O [1, 6, 7] rfl rfl (List.cons_ne_nil _ _)]
  show pickBest [(1, (minimaxL 2 [some O, some X, some O, some X, some X, some O, none, none, some X] O X).2), (6, (minimaxL 2 [some O, none, some O, some X, some X, some O, some X, none, some X] O X).2), (7, (minimaxL 2 [some O, none, some O, some X, some X, some O, none, some X, some X] O X).2)] X = (some 1, 0)
  rw [mmv_1429, mmv_3138, mmv_3152]
  rfl

theorem mmv_3155 : minimaxL 1 [some O, some O, none, some X, some X, some O, some O, some X, some X] X O = (some 2, 0) := by
  rw [minimaxL_succ 0 [some O, some O, none, some X, some X, some O, some O, some X, some X] X O [2] rfl rfl (List.cons_ne_nil _ _)]
  show pickBest [(2, (minimaxL 0 [some O, some O, some X, some X, some X, some O, some O, some X, some X] O X).2)] X = (some 2, 0)
  rw [mmv_2427]
  rfl

theorem mmv_3156 : minimaxL 1 [some O, none, some O, some X, some X, some O, some O, some X, some X] X O = (some 1, 1) := rfl

theorem mmv_3154 : minimaxL 2 [some O, none, none, some X, some X, some O, some O, some X, some X] O X = (some 1, 0) := by
  rw [minimaxL_succ 1 [some O, none, none, some X, some X, some O, some O, some X, some X] O X [1, 2] rfl rfl (List.cons_ne_nil _ _)]
  show pickBest [(1, (minimaxL 1 [some O, some O, none, some X, some X, some O, some O, some X, some X] X O).2), (2, (minimaxL 1 [some O, none, some O, some X, some X, some O, some O, some X, some X] X O).2)] O = (some 1, 0)
  rw [mmv_3155, mmv_3156]
  rfl

theorem mmv_3153 : minimaxL 3 [some O, none, none, some X, some X, some O, some O, none, some X] X O = (some 7, 0) := by
  rw [minimaxL_succ 2 [some O, none, none, some X, some X, some O, some O, none, some X] X O [1, 2, 7] rfl rfl (List.cons_ne_nil _ _)]
  show pickBest [(1, (minimaxL 2 [some O, some X, none, some X, some X, some O, some O, none, some X] O X).2), (2, (minimaxL 2 [some O, none, some X, some X, some X, some O, some O, none, some X] O X).2), (7, (minimaxL 2 [some O, none, none, some X, some X, some O, some O, some X, some X] O X).2)] X = (some 7, 0)
  rw [mmv_1485, mmv_2473, mmv_3154]
  rfl

theorem mmv_3159 : minimaxL 1 [some O, some O, none, some X, some X, some O, some X, some O, some X] X O = (some 2, 1) := rfl

theorem mmv_3160 : minimaxL 1 [some O, none, some O, some X, some X, some O, some X, some O, some X] X O = (some 1, 0) := by
  rw [minimaxL_succ 0 [some O, none, some O, some X, some X, some O, some X, some O, some X] X O [1] rfl rfl (List.cons_ne_nil _ _)]
  show pickBest [(1, (minimaxL 0 [some O, some X, some O, some X, some X, some O, some X, some O, some X] O X).2)] X = (some 1, 0)
  rw [mmv_1407]
  rfl

theorem mmv_3158 : minimaxL 2 [some O, none, none, some X, some X, some O, some X, some O, some X] O X = (some 2, 0) := by
  rw [minimaxL_succ 1 [some O, none, none, some X, some X, some O, some X, some O, some X] O X [1, 2] rfl rfl (List.cons_ne_nil _ _)]
  show pickBest [(1, (minimaxL 1 [some O, some O, none, some X, some X, some O, some X, some O, some X] X O).2), (2, (minimaxL 1 [some O, none, some O, some X, some X, some O, some X, some O, some X] X O).2)] O = (some 2, 0)
  rw [mmv_3159, mmv_3160]
  rfl

theorem mmv_3157 : minimaxL 3 [some O, none, none, some X, some X, some O, none, some O, some X] X O = (some 6, 0) := by
  rw [minimaxL_succ 2 [some O, none, none, some X, some X, some O, none, some O, some X] X O [1, 2, 6] rfl rfl (List.cons_ne_nil _ _)]
  show pickBest [(1, (minimaxL 2 [some O, some X, none, some X, some X, some O, none, some O, some X] O X).2), (2, (minimaxL 2 [some O, none, some X, some X, some X, some O, none, some O, some X] O X).2), (6, (minimaxL 2 [some O, none, none, some X, some X, some O, some X, some O, some X] O X).2)] X = (some 6, 0)
  rw [mmv_1468, mmv_2492, mmv_3158]
  rfl

theorem mmv_3148 : minimaxL 4 [some O, none, none, some X, some X, some O, none, none, some X] O X = (some 1, 0) := by
  rw [minimaxL_succ 3 [some O, none, none, some X, some X, some O, none, none, some X] O X [1, 2, 6, 7] rfl rfl (List.cons_ne_nil _ _)]
  show pickBest [(1, (minimaxL 3 [some O, some O, none, some X, some X, some O, none, none, some X] X O).2), (2, (minimaxL 3 [some O, none, some O, some X, some X, some O, none, none, some X] X O).2), (6, (minimaxL 3 [some O, none, none, some X, some X, some O, some O, none, some X] X O).2), (7, (minimaxL 3 [some O, none, none, some X, some X, some O, none, some O, some X] X O).2)] O = (some 1, 0)
  rw [mmv_3149, mmv_3151, mmv_3153, mmv_3157]
  rfl

theorem mmv_3133 : minimaxL 5 [some O, none, none, some X, some X, some O, none, none, none] X O = (some 8, 0) := by
  rw [minimaxL_succ 4 [some O, none, none, some X, some X, some O, none, none, none] X O [1, 2, 6, 7, 8] rfl rfl (List.cons_ne_nil _ _)]
  show pickBest [(1, (minimaxL 4 [some O, some X, none, some X, some X, some O, none, none, none] O X).2), (2, (minimaxL 4 [some O, none, some X, some X, some X, some O, none, none, none] O X).2), (6, (minimaxL 4 [some O, none, none, some X, some X, some O, some X, none, none] O X).2), (7, (minimaxL 4 [some O, none, none, some X, some X, some O, none, some X, none] O X).2), (8, (minimaxL 4 [some O, none, none, some X, some X, some O, none, none, some X] O X).2)] X = (some 8, 0)
  rw [mmv_1463, mmv_2469, mmv_3134, mmv_3141, mmv_3148]
  rfl

theorem mmv_3161 : minimaxL 5 [some O, none, none, some X, some X, none, some O, none, none] X O = (some 5, 1) := rfl

theorem mmv_3162 : minimaxL 5 [some O, none, none, some X, some X, none, none, some O, none] X O = (some 5, 1) := rfl

theorem mmv_3163 : minimaxL 5 [some O, none, none, some X, some X, none, none, none, some O] X O = (some 5, 1) := rfl

theorem mmv_3130 : minimaxL 6 [some O, none, none, some X, some X, none, none, none, none] O X = (some 5, 0) := by
  rw [minimaxL_succ 5 [some O, none, none, some X, some X, none, none, none, none] O X [1, 2, 5, 6, 7, 8] rfl rfl (List.cons_ne_nil _ _)]
  show pickBest [(1, (minimaxL 5 [some O, some O, none, some X, some X, none, none, none, none] X O).2), (2, (minimaxL 5 [some O, none, some O, some X, some X, none, none, none, none] X O).2), (5, (minimaxL 5 [some O, none, none, some X, some X, some O, none, none, none] X O).2), (6, (minimaxL 5 [some O, none, none, some X, some X, none, some O, none, none] X O).2), (7, (minimaxL 5 [some O, none, none, some X, some X, none, none, some O, none] X O).2), (8, (minimaxL 5 [some O, none, none, some X, some X, none, none, none, some O] X O).2)] O = (some 5, 0)
  rw [mmv_3131, mmv_3132, mmv_3133, mmv_3161, mmv_3162, mmv_3163]
  rfl

theorem mmv_3165 : minimaxL 5 [some O, some O, none, some X, none, some X, none, none, none] X O = (some 4, 1) := rfl

theorem mmv_3166 : minimaxL 5 [some O, none, some O, some X, none, some X, none, none, none] X O = (some 4, 1) := rfl

theorem mmv_3168 : minimaxL 4 [some O, none, none, some X, some O, some X, some X, none, none] O X = (some 8, -1) := rfl

theorem mmv_3169 : minimaxL 4 [some O, none, none, some X, some O, some X, none, some X, none] O X = (some 8, -1) := rfl

theorem mmv_3171 : minimaxL 3 [some O, some O, none, some X, some O, some X, none, none, some X] X O = (some 2, 1) := rfl

theorem mmv_3173 : minimaxL 2 [some O, none, some O, some X, some O, some X, some X, none, some X] O X = (some 1, -1) := rfl

theorem mmv_3174 : minimaxL 2 [some O, none, some O, some X, some O, some X, none, some X, some X] O X = (some 1, -1) := rfl

theorem mmv_3172 : minimaxL 3 [some O, none, some O, some X, some O, some X, none, none, some X] X O = (some 7, -1) := by
  rw [minimaxL_succ 2 [some O, none, some O, some X, some O, some X, none, none, some X] X O [1, 6, 7] rfl rfl (List.cons_ne_nil _ _)]
  show pickBest [(1, (minimaxL 2 [some O, some X, some O, some X, some O, some X, none, none, some X] O X).2), (6, (minimaxL 2 [some O, none, some O, some X, some O, some X, some X, none, some X] O X).2), (7, (minimaxL 2 [some O, none, some O, some X, some O, some X, none, some X, some X] O X).2)] X = (some 7, -1)
  rw [mmv_1391, mmv_3173, mmv_3174]
  rfl

theorem mmv_3175 : minimaxL 3 [some O, none, none, some X, some O, some X, some O, none, some X] X O = (some 2, 1) := rfl

theorem mmv_3176 : minimaxL 3 [some O, none, none, some X, some O, some X, none, some O, some X] X O = (some 2, 1) := rfl

theorem mmv_3170 : minimaxL 4 [some O, none, none, some X, some O, some X, none, none, some X] O X = (some 2, -1) := by
  rw [minimaxL_succ 3 [some O, none, none, some X, some O, some X, none, none, some X] O X [1, 2, 6, 7] rfl rfl (List.cons_ne_nil _ _)]
  show pickBest [(1, (minimaxL 3 [some O, some O, none, some X, some O, some X, none, none, some X] X O).2), (2, (minimaxL 3 [some O, none, some O, some X, some O, some X, none, none, some X] X O).2), (6, (minimaxL 3 [some O, none, none, some X, some O, some X, some O, none, some X] X O).2), (7, (minimaxL 3 [some O, none, none, some X, some O, some X, none, some O, some X] X O).2)] O = (some 2, -1)
  rw [mmv_3171, mmv_3172, mmv_3175, mmv_3176]
  rfl

theorem mmv_3167 : minimaxL 5 [some O, none, none, some X, some O, some X, none, none, none] X O = (some 8, -1) := by
  rw [minimaxL_succ 4 [some O, none, none, some X, some O, some X, none, none, none] X O [1, 2, 6, 7, 8] rfl rfl (List.cons_ne_nil _ _)]
  show pickBest [(1, (minimaxL 4 [some O, some X, none, some X, some O, some X, none, none, none] O X).2), (2, (minimaxL 4 [some O, none, some X, some X, some O, some X, none, none, none] O X).2), (6, (minimaxL 4 [some O, none, none, some X, some O, some X, some X, none, none] O X).2), (7, (minimaxL 4 [some O, none, none, some X, some O, some X, none, some X, none] O X).2), (8, (minimaxL 4 [some O, none, none, some X, some O, some X, none, none, some X] O X).2)] X = (some 8, -1)
  rw [mmv_1446, mmv_2457, mmv_3168, mmv_3169, mmv_3170]
  rfl

theorem mmv_3177 : minimaxL 5 [some O, none, none, some X, none, some X, some O, none, none] X O = (some 4, 1) := rfl

theorem mmv_3178 : minimaxL 5 [some O, none, none, some X, none, some X, none, some O, none] X O = (some 4, 1) := rfl

theorem mmv_3179 : minimaxL 5 [some O, none, none, some X, none, some X, none, none, some O] X O = (some 4, 1) := rfl

theorem mmv_3164 : minimaxL 6 [some O, none, none, some X, none, some X, none, none, none] O X = (some 4, -1) := by
  rw [minimaxL_succ 5 [some O, none, none, some X, none, some X, none, none, none] O X [1, 2, 4, 6, 7, 8] rfl rfl (List.cons_ne_nil _ _)]
  show pickBest [(1, (minimaxL 5 [some O, some O, none, some X, none, some X, none, none, none] X O).2), (2, (minimaxL 5 [some O, none, some O, some X, none, some X, none, none, none] X O).2), (4, (minimaxL 5 [some O, none, none, some X, some O, some X, none, none, none] X O).2), (6, (minimaxL 5 [some O, none, none, some X, none, some X, some O, none, none] X O).2), (7, (minimaxL 5 [some O, none, none, some X, none, some X, none, some O, none] X O).2), (8, (minimaxL 5 [some O, none, none, some X, none, some X, none, none, some O] X O).2)] O = (some 4, -1)
  rw [mmv_3165, mmv_3166, mmv_3167, mmv_3177, mmv_3178, mmv_3179]
  rfl

theorem mmv_3182 : minimaxL 4 [some O, some O, none, some X, some X, none, some X, none, none] O X = (some 2, -1) := rfl

theorem mmv_3183 : minimaxL 4 [some O, some O, none, some X, none, some X, some X, none, none] O X = (some 2, -1) := rfl

theorem mmv_3184 : minimaxL 4 [some O, some O, none, some X, none, none, some X, some X, none] O X = (some 2, -1) := rfl

theorem mmv_3185 : minimaxL 4 [some O, some O, none, some X, none, none, some X, none, some X] O X = (some 2, -1) := rfl

theorem mmv_3181 : minimaxL 5 [some O, some O, none, some X, none, none, some X, none, none] X O = (some 8, -1) := by
  rw [minimaxL_succ 4 [some O, some O, none, some X, none, none, some X, none, none] X O [2, 4, 5, 7, 8] rfl rfl (List.cons_ne_nil _ _)]
  show pickBest [(2, (minimaxL 4 [some O, some O, some X, some X, none, none, some X, none, none] O X).2), (4, (minimaxL 4 [some O, some O, none, some X, some X, none, some X, none, none] O X).2), (5, (minimaxL 4 [some O, some O, none, some X, none, some X, some X, none, none] O X).2), (7, (minimaxL 4 [some O, some O, none, some X, none, none, some X, some X, none] O X).2), (8, (minimaxL 4 [some O, some O, none, some X, none, none, some X, none, some X] O X).2)] X = (some 8, -1)
  rw [mmv_2410, mmv_3182, mmv_3183, mmv_3184, mmv_3185]
  rfl

theorem mmv_3187 : minimaxL 4 [some O, none, some O, some X, some X, none, some X, none, none] O X = (some 1, -1) := rfl

theorem mmv_3188 : minimaxL 4 [some O, none, some O, some X, none, some X, some X, none, none] O X = (some 1, -1) := rfl

theorem mmv_3189 : minimaxL 4 [some O, none, some O, some X, none, none, some X, some X, none] O X = (some 1, -1) := rfl

theorem mmv_3190 : minimaxL 4 [some O, none, some O, some X, none, none, some X, none, some X] O X = (some 1, -1) := rfl

theorem mmv_3186 : minimaxL 5 [some O, none, some O, some X, none, none, some X, none, none] X O = (some 8, -1) := by
  rw [minimaxL_succ 4 [some O, none, some O, some X, none, none, some X, none, none] X O [1, 4, 5, 7, 8] rfl rfl (List.cons_ne_nil _ _)]
  show pickBest [(1, (minimaxL 4 [some O, some X, some O, some X, none, none, some X, none, none] O X).2), (4, (minimaxL 4 [some O, none, some O, some X, some X, none, some X, none, none] O X).2), (5, (minimaxL 4 [some O, none, some O, some X, none, some X, some X, none, none] O X).2), (7, (minimaxL 4 [some O, none, some O, some X, none, none, some X, some X, none] O X).2), (8, (minimaxL 4 [some O, none, some O, some X, none, none, some X, none, some X] O X).2)] X = (some 8, -1)
  rw [mmv_1395, mmv_3187, mmv_3188, mmv_3189, mmv_3190]
  rfl

theorem mmv_3192 : minimaxL 4 [some O, none, none, some X, some O, none, some X, some X, none] O X = (some 8, -1) := rfl

theorem mmv_3194 : minimaxL 3 [some O, some O, none, some X, some O, none, some X, none, some X] X O = (some 7, 1) := rfl

theorem mmv_3195 : minimaxL 3 [some O, none, some O, some X, some O, none, some X, none, some X] X O = (some 7, 1) := rfl

theorem mmv_3196 : minimaxL 3 [some O, none, none, some X, some O, some O, some X, none, some X] X O = (some 7, 1) := rfl

theorem mmv_3198 : minimaxL 2 [some O, none, none, some X, some O, some X, some X, some O, some X] O X = (some 1, -1) := rfl

theorem mmv_3197 : minimaxL 3 [some O, none, none, some X, some O, none, some X, some O, some X] X O = (some 1, 0) := by
  rw [minimaxL_succ 2 [some O, none, none, some X, some O, none, some X, some O, some X] X O [1, 2, 5] rfl rfl (List.cons_ne_nil _ _)]
  show pickBest [(1, (minimaxL 2 [some O, some X, none, some X, some O, none, some X, some O, some X] O X).2), (2, (minimaxL 2 [some O, none, some X, some X, some O, none, some X, some O, some X] O X).2), (5, (minimaxL 2 [some O, none, none, some X, some O, some X, some X, some O, some X] O X).2)] X = (some 1, 0)
  rw [mmv_1461, mmv_2520, mmv_3198]
  rfl

theorem mmv_3193 : minimaxL 4 [some O, none, none, some X, some O, none, some X, none, some X] O X = (some 7, 0) := by
  rw [minimaxL_succ 3 [some O, none, none, some X, some O, none, some X, none, some X] O X [1, 2, 5, 7] rfl rfl (List.cons_ne_nil _ _)]
  show pickBest [(1, (minimaxL 3 [some O, some O, none, some X, some O, none, some X, none, some X] X O).2), (2, (minimaxL 3 [some O, none, some O, some X, some O, none, some X, none, some X] X O).2), (5, (minimaxL 3 [some O, none, none, some X, some O, some O, some X, none, some X] X O).2), (7, (minimaxL 3 [some O, none, none, some X, some O, none, some X, some O, some X] X O).2)] O = (some 7, 0)
  rw [mmv_3194, mmv_3195, mmv_3196, mmv_3197]
  rfl

theorem mmv_3191 : minimaxL 5 [some O, none, none, some X, some O, none, some X, none, none] X O = (some 8, 0) := by
  rw [minimaxL_succ 4 [some O, none, none, some X, some O, none, some X, none, none] X O [1, 2, 5, 7, 8] rfl rfl (List.cons_ne_nil _ _)]
  show pickBest [(1, (minimaxL 4 [some O, some X, none, some X, some O, none, some X, none, none] O X).2), (2, (minimaxL 4 [some O, none, some X, some X, some O, none, some X, none, none] O X).2), (5, (minimaxL 4 [some O, none, none, some X, some O, some X, some X, none, none] O X).2), (7, (minimaxL 4 [some O, none, none, some X, some O, none, some X, some X, none] O X).2), (8, (minimaxL 4 [some O, none, none, some X, some O, none, some X, none, some X] O X).2)] X = (some 8, 0)
  rw [mmv_1447, mmv_2458, mmv_3168, mmv_3192, mmv_3193]
  rfl

theorem mmv_3201 : minimaxL 3 [some O, some O, none, some X, none, some O, some X, some X, none] X O = (some 8, 1) := rfl

theorem mmv_3202 : minimaxL 3 [some O, none, some O, some X, none, some O, some X, some X, none] X O = (some 8, 1) := rfl

theorem mmv_3203 : minimaxL 3 [some O, none, none, some X, some O, some O, some X, some X, none] X O = (some 8, 1) := rfl

theorem mmv_3205 : minimaxL 2 [some O, none, none, some X, some X, some O, some X, some X, some O] O X = (some 2, -1) := rfl

theorem mmv_3204 : minimaxL 3 [some O, none, none, some X, none, some O, some X, some X, some O] X O = (some 4, -1) := by
  rw [minimaxL_succ 2 [some O, none, none, some X, none, some O, some X, some X, some O] X O [1, 2, 4] rfl rfl (List.cons_ne_nil _ _)]
  show pickBest [(1, (minimaxL 2 [some O, some X, none, some X, none, some O, some X, some X, some O] O X).2), (2, (minimaxL 2 [some O, none, some X, some X, none, some O, some X, some X, some O] O X).2), (4, (minimaxL 2 [some O, none, none, some X, some X, some O, some X, some X, some O] O X).2)] X = (some 4, -1)
  rw [mmv_1478, mmv_2488, mmv_3205]
  rfl

theorem mmv_3200 : minimaxL 4 [some O, none, none, some X, none, some O, some X, some X, none] O X = (some 8, -1) := by
  rw [minimaxL_succ 3 [some O, none, none, some X, none, some O, some X, some X, none] O X [1, 2, 4, 8] rfl rfl (List.cons_ne_nil _ _)]
  show pickBest [(1, (minimaxL 3 [some O, some O, none, some X, none, some O, some X, some X, none] X O).2), (2, (minimaxL 3 [some O, none, some O, some X, none, some O, some X, some X, none] X O).2), (4, (minimaxL 3 [some O, none, none, some X, some O, some O, some X, some X, none] X O).2), (8, (minimaxL 3 [some O, none, none, some X, none, some O, some X, some X, some O] X O).2)] O = (some 8, -1)
  rw [mmv_3201, mmv_3202, mmv_3203, mmv_3204]
  rfl

theorem mmv_3207 : minimaxL 3 [some O, some O, none, some X, none, some O, some X, none, some X] X O = (some 7, 1) := rfl

theorem mmv_3208 : minimaxL 3 [some O, none, some O, some X, none, some O, some X, none, some X] X O = (some 7, 1) := rfl

theorem mmv_3209 : minimaxL 3 [some O, none, none, some X, none, some O, some X, some O, some X] X O = (some 4, 0) := by
  rw [minimaxL_succ 2 [some O, none, none, some X, none, some O, some X, some O, some X] X O [1, 2, 4] rfl rfl (List.cons_ne_nil _ _)]
  show pickBest [(1, (minimaxL 2 [some O, some X, none, some X, none, some O, some X, some O, some X] O X).2), (2, (minimaxL 2 [some O, none, some X, some X, none, some O, some X, some O, some X] O X).2), (4, (minimaxL 2 [some O, none, none, some X, some X, some O, some X, some O, some X] O X).2)] X = (some 4, 0)
  rw [mmv_1475, mmv_2493, mmv_3158]
  rfl

theorem mmv_3206 : minimaxL 4 [some O, none, none, some X, none, some O, some X, none, some X] O X = (some 7, 0) := by
  rw [minimaxL_succ 3 [some O, none, none, some X, none, some O, some X, none, some X] O X [1, 2, 4, 7] rfl rfl (List.cons_ne_nil _ _)]
  show pickBest [(1, (minimaxL 3 [some O, some O, none, some X, none, some O, some X, none, some X] X O).2), (2, (minimaxL 3 [some O, none, some O, some X, none, some O, some X, none, some X] X O).2), (4, (minimaxL 3 [some O, none, none, some X, some O, some O, some X, none, some X] X O).2), (7, (minimaxL 3 [some O, none, none, some X, none, some O, some X, some O, some X] X O).2)] O = (some 7, 0)
  rw [mmv_3207, mmv_3208, mmv_3196, mmv_3209]
  rfl

theorem mmv_3199 : minimaxL 5 [some O, none, none, some X, none, some O, some X, none, none] X O = (some 8, 0) := by
  rw [minimaxL_succ 4 [some O, none, none, some X, none, some O, some X, none, none] X O [1, 2, 4, 7, 8] rfl rfl (List.cons_ne_nil _ _)]
  show pickBest [(1, (minimaxL 4 [some O, some X, none, some X, none, some O, some X, none, none] O X).2), (2, (minimaxL 4 [some O, none, some X, some X, none, some O, some X, none, none] O X).2), (4, (minimaxL 4 [some O, none, none, some X, some X, some O, some X, none, none] O X).2), (7, (minimaxL 4 [some O, none, none, some X, none, some O, some X, some X, none] O X).2), (8, (minimaxL 4 [some O, none, none, some X, none, some O, some X, none, some X] O X).2)] X = (some 8, 0)
  rw [mmv_1471, mmv_2477, mmv_3134, mmv_3200, mmv_3206]
  rfl

theorem mmv_3212 : minimaxL 3 [some O, some O, none, some X, some X, none, some X, some O, none] X O = (some 5, 1) := rfl

theorem mmv_3213 : minimaxL 3 [some O, none, some O, some X, some X, none, some X, some O, none] X O = (some 5, 1) := rfl

theorem mmv_3214 : minimaxL 3 [some O, none, none, some X, some X, none, some X, some O, some O] X O = (some 5, 1) := rfl

theorem mmv_3211 : minimaxL 4 [some O, none, none, some X, some X, none, some X, some O, none] O X = (some 1, 1) := by
  rw [minimaxL_succ 3 [some O, none, none, some X, some X, none, some X, some O, none] O X [1, 2, 5, 8] rfl rfl (List.cons_ne_nil _ _)]
  show pickBest [(1, (minimaxL 3 [some O, some O, none, some X, some X, none, some X, some O, none] X O).2), (2, (minimaxL 3 [some O, none, some O, some X, some X, none, some X, some O, none] X O).2), (5, (minimaxL 3 [some O, none, none, some X, some X, some O, some X, some O, none] X O).2), (8, (minimaxL 3 [some O, none, none, some X, some X, none, some X, some O, some O] X O).2)] O = (some 1, 1)
  rw [mmv_3212, mmv_3213, mmv_3139, mmv_3214]
  rfl

theorem mmv_3216 : minimaxL 3 [some O, some O, none, some X, none, some X, some X, some O, none] X O = (some 4, 1) := rfl

theorem mmv_3217 : minimaxL 3 [some O, none, some O, some X, none, some X, some X, some O, none] X O = (some 4, 1) := rfl

theorem mmv_3218 : minimaxL 3 [some O, none, none, some X, some O, some X, some X, some O, none] X O = (some 8, -1) := by
  rw [minimaxL_succ 2 [some O, none, none, some X, some O, some X, some X, some O, none] X O [1, 2, 8] rfl rfl (List.cons_ne_nil _ _)]
  show pickBest [(1, (minimaxL 2 [some O, some X, none, some X, some O, some X, some X, some O, none] O X).2), (2, (minimaxL 2 [some O, none, some X, some X, some O, some X, some X, some O, none] O X).2), (8, (minimaxL 2 [some O, none, none, some X, some O, some X, some X, some O, some X] O X).2)] X = (some 8, -1)
  rw [mmv_1509, mmv_2519, mmv_3198]
  rfl

theorem mmv_3219 : minimaxL 3 [some O, none, none, some X, none, some X, some X, some O, some O] X O = (some 4, 1) := rfl

theorem mmv_3215 : minimaxL 4 [some O, none, none, some X, none, some X, some X, some O, none] O X = (some 4, -1) := by
  rw [minimaxL_succ 3 [some O, none, none, some X, none, some X, some X, some O, none] O X [1, 2, 4, 8] rfl rfl (List.cons_ne_nil _ _)]
  show pickBest [(1, (minimaxL 3 [some O, some O, none, some X, none, some X, some X, some O, none] X O).2), (2, (minimaxL 3 [some O, none, some O, some X, none, some X, some X, some O, none] X O).2), (4, (minimaxL 3 [some O, none, none, some X, some O, some X, some X, some O, none] X O).2), (8, (minimaxL 3 [some O, none, none, some X, none, some X, some X, some O, some O] X O).2)] O = (some 4, -1)
  rw [mmv_3216, mmv_3217, mmv_3218, mmv_3219]
  rfl

theorem mmv_3222 : minimaxL 2 [some O, some O, some X, some X, none, none, some X, some O, some X] O X = (some 4, -1) := rfl

theorem mmv_3223 : minimaxL 2 [some O, some O, none, some X, some X, none, some X, some O, some X] O X = (some 2, -1) := rfl

theorem mmv_3224 : minimaxL 2 [some O, some O, none, some X, none, some X, some X, some O, some X] O X = (some 2, -1) := rfl

theorem mmv_3221 : minimaxL 3 [some O, some O, none, some X, none, none, some X, some O, some X] X O = (some 5, -1) := by
  rw [minimaxL_succ 2 [some O, some O, none, some X, none, none, some X, some O, some X] X O [2, 4, 5] rfl rfl (List.cons_ne_nil _ _)]
  show pickBest [(2, (minimaxL 2 [some O, some O, some X, some X, none, none, some X, some O, some X] O X).2), (4, (minimaxL 2 [some O, some O, none, some X, some X, none, some X, some O, some X] O X).2), (5, (minimaxL 2 [some O, some O, none, some X, none, some X, some X, some O, some X] O X).2)] X = (some 5, -1)
  rw [mmv_3222, mmv_3223, mmv_3224]
  rfl

theorem mmv_3226 : minimaxL 2 [some O, none, some O, some X, some X, none, some X, some O, some X] O X = (some 1, -1) := rfl

theorem mmv_3227 : minimaxL 2 [some O, none, some O, some X, none, some X, some X, some O, some X] O X = (some 1, -1) := rfl

theorem mmv_3225 : minimaxL 3 [some O, none, some O, some X, none, none, some X, some O, some X] X O = (some 1, 0) := by
  rw [minimaxL_succ 2 [some O, none, some O, some X, none, none, some X, some O, some X] X O [1, 4, 5] rfl rfl (List.cons_ne_nil _ _)]
  show pickBest [(1, (minimaxL 2 [some O, some X, some O, some X, none, none, some X, some O, some X] O X).2), (4, (minimaxL 2 [some O, none, some O, some X, some X, none, some X, some O, some X] O X).2), (5, (minimaxL 2 [some O, none, some O, some X, none, some X, some X, some O, some X] O X).2)] X = (some 1, 0)
  rw [mmv_1415, mmv_3226, mmv_3227]
  rfl

theorem mmv_3220 : minimaxL 4 [some O, none, none, some X, none, none, some X, some O, some X] O X = (some 1, -1) := by
  rw [minimaxL_succ 3 [some O, none, none, some X, none, none, some X, some O, some X] O X [1, 2, 4, 5] rfl rfl (List.cons_ne_nil _ _)]
  show pickBest [(1, (minimaxL 3 [some O, some O, none, some X, none, none, some X, some O, some X] X O).2), (2, (minimaxL 3 [some O, none, some O, some X, none, none, some X, some O, some X] X O).2), (4, (minimaxL 3 [some O, none, none, some X, some O, none, some X, some O, some X] X O).2), (5, (minimaxL 3 [some O, none, none, some X, none, some O, some X, some O, some X] X O).2)] O = (some 1, -1)
  rw [mmv_3221, mmv_3225, mmv_3197, mmv_3209]
  rfl

theorem mmv_3210 : minimaxL 5 [some O, none, none, some X, none, none, some X, some O, none] X O = (some 4, 1) := by
  rw [minimaxL_succ 4 [some O, none, none, some X, none, none, some X, some O, none] X O [1, 2, 4, 5, 8] rfl rfl (List.cons_ne_nil _ _)]
  show pickBest [(1, (minimaxL 4 [some O, some X, none, some X, none, none, some X, some O, none] O X).2), (2, (minimaxL 4 [some O, none, some X, some X, none, none, some X, some O, none] O X).2), (4, (minimaxL 4 [some O, none, none, some X, some X, none, some X, some O, none] O X).2), (5, (minimaxL 4 [some O, none, none, some X, none, some X, some X, some O, none] O X).2), (8, (minimaxL 4 [some O, none, none, some X, none, none, some X, some O, some X] O X).2)] X = (some 4, 1)
  rw [mmv_1511, mmv_2517, mmv_3211, mmv_3215, mmv_3220]
  rfl

theorem mmv_3230 : minimaxL 3 [some O, some O, none, some X, some X, none, some X, none, some O] X O = (some 5, 1) := rfl

theorem mmv_3231 : minimaxL 3 [some O, none, some O, some X, some X, none, some X, none, some O] X O = (some 5, 1) := rfl

theorem mmv_3229 : minimaxL 4 [some O, none, none, some X, some X, none, some X, none, some O] O X = (some 1, 1) := by
  rw [minimaxL_succ 3 [some O, none, none, some X, some X, none, some X, none, some O] O X [1, 2, 5, 7] rfl rfl (List.cons_ne_nil _ _)]
  show pickBest [(1, (minimaxL 3 [some O, some O, none, some X, some X, none, some X, none, some O] X O).2), (2, (minimaxL 3 [some O, none, some O, some X, some X, none, some X, none, some O] X O).2), (5, (minimaxL 3 [some O, none, none, some X, some X, some O, some X, none, some O] X O).2), (7, (minimaxL 3 [some O, none, none, some X, some X, none, some X, some O, some O] X O).2)] O = (some 1, 1)
  rw [mmv_3230, mmv_3231, mmv_3140, mmv_3214]
  rfl

theorem mmv_3232 : minimaxL 4 [some O, none, none, some X, none, some X, some X, none, some O] O X = (some 4, -1) := rfl

theorem mmv_3233 : minimaxL 4 [some O, none, none, some X, none, none, some X, some X, some O] O X = (some 4, -1) := rfl

theorem mmv_3228 : minimaxL 5 [some O, none, none, some X, none, none, some X, none, some O] X O = (some 4, 1) := by
  rw [minimaxL_succ 4 [some O, none, none, some X, none, none, some X, none, some O] X O [1, 2, 4, 5, 7] rfl rfl (List.cons_ne_nil _ _)]
  show pickBest [(1, (minimaxL 4 [some O, some X, none, some X, none, none, some X, none, some O] O X).2), (2, (minimaxL 4 [some O, none, some X, some X, none, none, some X, none, some O] O X).2), (4, (minimaxL 4 [some O, none, none, some X, some X, none, some X, none, some O] O X).2), (5, (minimaxL 4 [some O, none, none, some X, none, some X, some X, none, some O] O X).2), (7, (minimaxL 4 [some O, none, none, some X, none, none, some X, some X, some O] O X).2)] X = (some 4, 1)
  rw [mmv_1520, mmv_2526, mmv_3229, mmv_3232, mmv_3233]
  rfl

theorem mmv_3180 : minimaxL 6 [some O, none, none, some X, none, none, some X, none, none] O X = (some 1, -1) := by
  rw [minimaxL_succ 5 [some O, none, none, some X, none, none, some X, none, none] O X [1, 2, 4, 5, 7, 8] rfl rfl (List.cons_ne_nil _ _)]
  show pickBest [(1, (minimaxL 5 [some O, some O, none, some X, none, none, some X, none, none] X O).2), (2, (minimaxL 5 [some O, none, some O, some X, none, none, some X, none, none] X O).2), (4, (minimaxL 5 [some O, none, none, some X, some O, none, some X, none, none] X O).2), (5, (minimaxL 5 [some O, none, none, some X, none, some O, some X, none, none] X O).2), (7, (minimaxL 5 [some O, none, none, some X, none, none, some X, some O, none] X O).2), (8, (minimaxL 5 [some O, none, none, some X, none, none, some X, none, some O] X O).2)] O = (some 1, -1)
  rw [mmv_3181, mmv_3186, mmv_3191, mmv_3199, mmv_3210, mmv_3228]
  rfl

theorem mmv_3236 : minimaxL 4 [some O, some O, none, some X, some X, none, none, some X, none] O X = (some 2, -1) := rfl

theorem mmv_3237 : minimaxL 4 [some O, some O, none, some X, none, some X, none, some X, none] O X = (some 2, -1) := rfl

theorem mmv_3238 : minimaxL 4 [some O, some O, none, some X, none, none, none, some X, some X] O X = (some 2, -1) := rfl

theorem mmv_3235 : minimaxL 5 [some O, some O, none, some X, none, none, none, some X, none] X O = (some 2, 1) := by
  rw [minimaxL_succ 4 [some O, some O, none, some X, none, none, none, some X, none] X O [2, 4, 5, 6, 8] rfl rfl (List.cons_ne_nil _ _)]
  show pickBest [(2, (minimaxL 4 [some O, some O, some X, some X, none, none, none, some X, none] O X).2), (4, (minimaxL 4 [some O, some O, none, some X, some X, none, none, some X, none] O X).2), (5, (minimaxL 4 [some O, some O, none, some X, none, some X, none, some X, none] O X).2), (6, (minimaxL 4 [some O, some O, none, some X, none, none, some X, some X, none] O X).2), (8, (minimaxL 4 [some O, some O, none, some X, none, none, none, some X, some X] O X).2)] X = (some 2, 1)
  rw [mmv_2418, mmv_3236, mmv_3237, mmv_3184, mmv_3238]
  rfl

theorem mmv_3240 : minimaxL 4 [some O, none, some O, some X, some X, none, none, some X, none] O X = (some 1, -1) := rfl

theorem mmv_3241 : minimaxL 4 [some O, none, some O, some X, none, some X, none, some X, none] O X = (some 1, -1) := rfl

theorem mmv_3242 : minimaxL 4 [some O, none, some O, some X, none, none, none, some X, some X] O X = (some 1, -1) := rfl

theorem mmv_3239 : minimaxL 5 [some O, none, some O, some X, none, none, none, some X, none] X O = (some 8, -1) := by
  rw [minimaxL_succ 4 [some O, none, some O, some X, none, none, none, some X, none] X O [1, 4, 5, 6, 8] rfl rfl (List.cons_ne_nil _ _)]
  show pickBest [(1, (minimaxL 4 [some O, some X, some O, some X, none, none, none, some X, none] O X).2), (4, (minimaxL 4 [some O, none, some O, some X, some X, none, none, some X, none] O X).2), (5, (minimaxL 4 [some O, none, some O, some X, none, some X, none, some X, none] O X).2), (6, (minimaxL 4 [some O, none, some O, some X, none, none, some X, some X, none] O X).2), (8, (minimaxL 4 [some O, none, some O, some X, none, none, none, some X, some X] O X).2)] X = (some 8, -1)
  rw [mmv_1420, mmv_3240, mmv_3241, mmv_3189, mmv_3242]
  rfl

theorem mmv_3245 : minimaxL 3 [some O, some O, none, some X, some O, none, none, some X, some X] X O = (some 6, 1) := rfl

theorem mmv_3246 : minimaxL 3 [some O, none, some O, some X, some O, none, none, some X, some X] X O = (some 6, 1) := rfl

theorem mmv_3247 : minimaxL 3 [some O, none, none, some X, some O, some O, none, some X, some X] X O = (some 6, 1) := rfl

theorem mmv_3249 : minimaxL 2 [some O, none, none, some X, some O, some X, some O, some X, some X] O X = (some 2, -1) := rfl

theorem mmv_3248 : minimaxL 3 [some O, none, none, some X, some O, none, some O, some X, some X] X O = (some 2, 0) := by
  rw [minimaxL_succ 2 [some O, none, none, some X, some O, none, some O, some X, some X] X O [1, 2, 5] rfl rfl (List.cons_ne_nil _ _)]
  show pickBest [(1, (minimaxL 2 [some O, some X, none, some X, some O, none, some O, some X, some X] O X).2), (2, (minimaxL 2 [some O, none, some X, some X, some O, none, some O, some X, some X] O X).2), (5, (minimaxL 2 [some O, none, none, some X, some O, some X, some O, some X, some X] O X).2)] X = (some 2, 0)
  rw [mmv_1457, mmv_2505, mmv_3249]
  rfl

theorem mmv_3244 : minimaxL 4 [some O, none, none, some X, some O, none, none, some X, some X] O X = (some 6, 0) := by
  rw [minimaxL_succ 3 [some O, none, none, some X, some O, none, none, some X, some X] O X [1, 2, 5, 6] rfl rfl (List.cons_ne_nil _ _)]
  show pickBest [(1, (minimaxL 3 [some O, some O, none, some X, some O, none, none, some X, some X] X O).2), (2, (minimaxL 3 [some O, none, some O, some X, some O, none, none, some X, some X] X O).2), (5, (minimaxL 3 [some O, none, none, some X, some O, some O, none, some X, some X] X O).2), (6, (minimaxL 3 [some O, none, none, some X, some O, none, some O, some X, some X] X O).2)] O = (some 6, 0)
  rw [mmv_3245, mmv_3246, mmv_3247, mmv_3248]
  rfl

theorem mmv_3243 : minimaxL 5 [some O, none, none, some X, some O, none, none, some X, none] X O = (some 8, 0) := by
  rw [minimaxL_succ 4 [some O, none, none, some X, some O, none, none, some X, none] X O [1, 2, 5, 6, 8] rfl rfl (List.cons_ne_nil _ _)]
  show pickBest [(1, (minimaxL 4 [some O, some X, none, some X, some O, none, none, some X, none] O X).2), (2, (minimaxL 4 [some O, none, some X, some X, some O, none, none, some X, none] O X).2), (5, (minimaxL 4 [some O, none, none, some X, some O, some X, none, some X, none] O X).2), (6, (minimaxL 4 [some O, none, none, some X, some O, none, some X, some X, none] O X).2), (8, (minimaxL 4 [some O, none, none, some X, some O, none, none, some X, some X] O X).2)] X = (some 8, 0)
  rw [mmv_1448, mmv_2459, mmv_3169, mmv_3192, mmv_3244]
  rfl

theorem mmv_3252 : minimaxL 3 [some O, some O, none, some X, none, some O, none, some X, some X] X O = (some 6, 1) := rfl

theorem mmv_3253 : minimaxL 3 [some O, none, some O, some X, none, some O, none, some X, some X] X O = (some 6, 1) := rfl

theorem mmv_3254 : minimaxL 3 [some O, none, none, some X, none, some O, some O, some X, some X] X O = (some 4, 0) := by
  rw [minimaxL_succ 2 [some O, none, none, some X, none, some O, some O, some X, some X] X O [1, 2, 4] rfl rfl (List.cons_ne_nil _ _)]
  show pickBest [(1, (minimaxL 2 [some O, some X, none, some X, none, some O, some O, some X, some X] O X).2), (2, (minimaxL 2 [some O, none, some X, some X, none, some O, some O, some X, some X] O X).2), (4, (minimaxL 2 [some O, none, none, some X, some X, some O, some O, some X, some X] O X).2)] X = (some 4, 0)
  rw [mmv_1486, mmv_2485, mmv_3154]
  rfl

theorem mmv_3251 : minimaxL 4 [some O, none, none, some X, none, some O, none, some X, some X] O X = (some 6, 0) := by
  rw [minimaxL_succ 3 [some O, none, none, some X, none, some O, none, some X, some X] O X [1, 2, 4, 6] rfl rfl (List.cons_ne_nil _ _)]
  show pickBest [(1, (minimaxL 3 [some O, some O, none, some X, none, some O, none, some X, some X] X O).2), (2, (minimaxL 3 [some O, none, some O, some X, none, some O, none, some X, some X] X O).2), (4, (minimaxL 3 [some O, none, none, some X, some O, some O, none, some X, some X] X O).2), (6, (minimaxL 3 [some O, none, none, some X, none, some O, some O, some X, some X] X O).2)] O = (some 6, 0)
  rw [mmv_3252, mmv_3253, mmv_3247, mmv_3254]
  rfl

theorem mmv_3250 : minimaxL 5 [some O, none, none, some X, none, some O, none, some X, none] X O = (some 8, 0) := by
  rw [minimaxL_succ 4 [some O, none, none, some X, none, some O, none, some X, none] X O [1, 2, 4, 6, 8] rfl rfl (List.cons_ne_nil _ _)]
  show pickBest [(1, (minimaxL 4 [some O, some X, none, some X, none, some O, none, some X, none] O X).2), (2, (minimaxL 4 [some O, none, some X, some X, none, some O, none, some X, none] O X).2), (4, (minimaxL 4 [some O, none, none, some X, some X, some O, none, some X, none] O X).2), (6, (minimaxL 4 [some O, none, none, some X, none, some O, some X, some X, none] O X).2), (8, (minimaxL 4 [some O, none, none, some X, none, some O, none, some X, some X] O X).2)] X = (some 8, 0)
  rw [mmv_1479, mmv_2482, mmv_3141, mmv_3200, mmv_3251]
  rfl

theorem mmv_3257 : minimaxL 3 [some O, some O, none, some X, some X, none, some O, some X, none] X O = (some 5, 1) := rfl

theorem mmv_3258 : minimaxL 3 [some O, none, some O, some X, some X, none, some O, some X, none] X O = (some 5, 1) := rfl

theorem mmv_3259 : minimaxL 3 [some O, none, none, some X, some X, none, some O, some X, some O] X O = (some 5, 1) := rfl

theorem mmv_3256 : minimaxL 4 [some O, none, none, some X, some X, none, some O, some X, none] O X = (some 1, 1) := by
  rw [minimaxL_succ 3 [some O, none, none, some X, some X, none, some O, some X, none] O X [1, 2, 5, 8] rfl rfl (List.cons_ne_nil _ _)]
  show pickBest [(1, (minimaxL 3 [some O, some O, none, some X, some X, none, some O, some X, none] X O).2), (2, (minimaxL 3 [some O, none, some O, some X, some X, none, some O, some X, none] X O).2), (5, (minimaxL 3 [some O, none, none, some X, some X, some O, some O, some X, none] X O).2), (8, (minimaxL 3 [some O, none, none, some X, some X, none, some O, some X, some O] X O).2)] O = (some 1, 1)
  rw [mmv_3257, mmv_3258, mmv_3146, mmv_3259]
  rfl

theorem mmv_3261 : minimaxL 3 [some O, some O, none, some X, none, some X, some O, some X, none] X O = (some 4, 1) := rfl

theorem mmv_3262 : minimaxL 3 [some O, none, some O, some X, none, some X, some O, some X, none] X O = (some 4, 1) := rfl

theorem mmv_3263 : minimaxL 3 [some O, none, none, some X, some O, some X, some O, some X, none] X O = (some 8, -1) := by
  rw [minimaxL_succ 2 [some O, none, none, some X, some O, some X, some O, some X, none] X O [1, 2, 8] rfl rfl (List.cons_ne_nil _ _)]
  show pickBest [(1, (minimaxL 2 [some O, some X, none, some X, some O, some X, some O, some X, none] O X).2), (2, (minimaxL 2 [some O, none, some X, some X, some O, some X, some O, some X, none] O X).2), (8, (minimaxL 2 [some O, none, none, some X, some O, some X, some O, some X, some X] O X).2)] X = (some 8, -1)
  rw [mmv_1494, mmv_2504, mmv_3249]
  rfl

theorem mmv_3264 : minimaxL 3 [some O, none, none, some X, none, some X, some O, some X, some O] X O = (some 4, 1) := rfl

theorem mmv_3260 : minimaxL 4 [some O, none, none, some X, none, some X, some O, some X, none] O X = (some 4, -1) := by
  rw [minimaxL_succ 3 [some O, none, none, some X, none, some X, some O, some X, none] O X [1, 2, 4, 8] rfl rfl (List.cons_ne_nil _ _)]
  show pickBest [(1, (minimaxL 3 [some O, some O, none, some X, none, some X, some O, some X, none] X O).2), (2, (minimaxL 3 [some O, none, some O, some X, none, some X, some O, some X, none] X O).2), (4, (minimaxL 3 [some O, none, none, some X, some O, some X, some O, some X, none] X O).2), (8, (minimaxL 3 [some O, none, none, some X, none, some X, some O, some X, some O] X O).2)] O = (some 4, -1)
  rw [mmv_3261, mmv_3262, mmv_3263, mmv_3264]
  rfl

theorem mmv_3267 : minimaxL 2 [some O, some O, none, some X, some X, none, some O, some X, some X] O X = (some 2, -1) := rfl

theorem mmv_3268 : minimaxL 2 [some O, some O, none, some X, none, some X, some O, some X, some X] O X = (some 2, -1) := rfl

theorem mmv_3266 : minimaxL 3 [some O, some O, none, some X, none, none, some O, some X, some X] X O = (some 2, 0) := by
  rw [minimaxL_succ 2 [some O, some O, none, some X, none, none, some O, some X, some X] X O [2, 4, 5] rfl rfl (List.cons_ne_nil _ _)]
  show pickBest [(2, (minimaxL 2 [some O, some O, some X, some X, none, none, some O, some X, some X] O X).2), (4, (minimaxL 2 [some O, some O, none, some X, some X, none, some O, some X, some X] O X).2), (5, (minimaxL 2 [some O, some O, none, some X, none, some X, some O, some X, some X] O X).2)] X = (some 2, 0)
  rw [mmv_2440, mmv_3267, mmv_3268]
  rfl

theorem mmv_3270 : minimaxL 2 [some O, none, some O, some X, some X, none, some O, some X, some X] O X = (some 1, -1) := rfl

theorem mmv_3271 : minimaxL 2 [some O, none, some O, some X, none, some X, some O, some X, some X] O X = (some 1, -1) := rfl

theorem mmv_3269 : minimaxL 3 [some O, none, some O, some X, none, none, some O, some X, some X] X O = (some 5, -1) := by
  rw [minimaxL_succ 2 [some O, none, some O, some X, none, none, some O, some X, some X] X O [1, 4, 5] rfl rfl (List.cons_ne_nil _ _)]
  show pickBest [(1, (minimaxL 2 [some O, some X, some O, some X, none, none, some O, some X, some X] O X).2), (4, (minimaxL 2 [some O, none, some O, some X, some X, none, some O, some X, some X] O X).2), (5, (minimaxL 2 [some O, none, some O, some X, none, some X, some O, some X, some X] O X).2)] X = (some 5, -1)
  rw [mmv_1439, mmv_3270, mmv_3271]
  rfl

theorem mmv_3265 : minimaxL 4 [some O, none, none, some X, none, none, some O, some X, some X] O X = (some 2, -1) := by
  rw [minimaxL_succ 3 [some O, none, none, some X, none, none, some O, some X, some X] O X [1, 2, 4, 5] rfl rfl (List.cons_ne_nil _ _)]
  show pickBest [(1, (minimaxL 3 [some O, some O, none, some X, none, none, some O, some X, some X] X O).2), (2, (minimaxL 3 [some O, none, some O, some X, none, none, some O, some X, some X] X O).2), (4, (minimaxL 3 [some O, none, none, some X, some O, none, some O, some X, some X] X O).2), (5, (minimaxL 3 [some O, none, none, some X, none, some O, some O, some X, some X] X O).2)] O = (some 2, -1)
  rw [mmv_3266, mmv_3269, mmv_3248, mmv_3254]
  rfl

theorem mmv_3255 : minimaxL 5 [some O, none, none, some X, none, none, some O, some X, none] X O = (some 4, 1) := by
  rw [minimaxL_succ 4 [some O, none, none, some X, none, none, some O, some X, none] X O [1, 2, 4, 5, 8] rfl rfl (List.cons_ne_nil _ _)]
  show pickBest [(1, (minimaxL 4 [some O, some X, none, some X, none, none, some O, some X, none] O X).2), (2, (minimaxL 4 [some O, none, some X, some X, none, none, some O, some X, none] O X).2), (4, (minimaxL 4 [some O, none, none, some X, some X, none, some O, some X, none] O X).2), (5, (minimaxL 4 [some O, none, none, some X, none, some X, some O, some X, none] O X).2), (8, (minimaxL 4 [some O, none, none, some X, none, none, some O, some X, some X] O X).2)] X = (some 4, 1)
  rw [mmv_1497, mmv_2502, mmv_3256, mmv_3260, mmv_3265]
  rfl

theorem mmv_3274 : minimaxL 3 [some O, some O, none, some X, some X, none, none, some X, some O] X O = (some 5, 1) := rfl

theorem mmv_3275 : minimaxL 3 [some O, none, some O, some X, some X, none, none, some X, some O] X O = (some 5, 1) := rfl

theorem mmv_3273 : minimaxL 4 [some O, none, none, some X, some X, none, none, some X, some O] O X = (some 1, 1) := by
  rw [minimaxL_succ 3 [some O, none, none, some X, some X, none, none, some X, some O] O X [1, 2, 5, 6] rfl rfl (List.cons_ne_nil _ _)]
  show pickBest [(1, (minimaxL 3 [some O, some O, none, some X, some X, none, none, some X, some O] X O).2), (2, (minimaxL 3 [some O, none, some O, some X, some X, none, none, some X, some O] X O).2), (5, (minimaxL 3 [some O, none, none, some X, some X, some O, none, some X, some O] X O).2), (6, (minimaxL 3 [some O, none, none, some X, some X, none, some O, some X, some O] X O).2)] O = (some 1, 1)
  rw [mmv_3274, mmv_3275, mmv_3147, mmv_3259]
  rfl

theorem mmv_3276 : minimaxL 4 [some O, none, none, some X, none, some X, none, some X, some O] O X = (some 4, -1) := rfl

theorem mmv_3272 : minimaxL 5 [some O, none, none, some X, none, none, none, some X, some O] X O = (some 4, 1) := by
  rw [minimaxL_succ 4 [some O, none, none, some X, none, none, none, some X, some O] X O [1, 2, 4, 5, 6] rfl rfl (List.cons_ne_nil _ _)]
  show pickBest [(1, (minimaxL 4 [some O, some X, none, some X, none, none, none, some X, some O] O X).2), (2, (minimaxL 4 [some O, none, some X, some X, none, none, none, some X, some O] O X).2), (4, (minimaxL 4 [some O, none, none, some X, some X, none, none, some X, some O] O X).2), (5, (minimaxL 4 [some O, none, none, some X, none, some X, none, some X, some O] O X).2), (6, (minimaxL 4 [some O, none, none, some X, none, none, some X, some X, some O] O X).2)] X = (some 4, 1)
  rw [mmv_1521, mmv_2527, mmv_3273, mmv_3276, mmv_3233]
  rfl

theorem mmv_3234 : minimaxL 6 [some O, none, none, some X, none, none, none, some X, none] O X = (some 2, -1) := by
  rw [minimaxL_succ 5 [some O, none, none, some X, none, none, none, some X, none] O X [1, 2, 4, 5, 6, 8] rfl rfl (List.cons_ne_nil _ _)]
  show pickBest [(1, (minimaxL 5 [some O, some O, none, some X, none, none, none, some X, none] X O).2), (2, (minimaxL 5 [some O, none, some O, some X, none, none, none, some X, none] X O).2), (4, (minimaxL 5 [some O, none, none, some X, some O, none, none, some X, none] X O).2), (5, (minimaxL 5 [some O, none, none, some X, none, some O, none, some X, none] X O).2), (6, (minimaxL 5 [some O, none, none, some X, none, none, some O, some X, none] X O).2), (8, (minimaxL 5 [some O, none, none, some X, none, none, none, some X, some O] X O).2)] O = (some 2, -1)
  rw [mmv_3235, mmv_3239, mmv_3243, mmv_3250, mmv_3255, mmv_3272]
  rfl

theorem mmv_3279 : minimaxL 4 [some O, some O, none, some X, some X, none, none, none, some X] O X = (some 2, -1) := rfl

theorem mmv_3280 : minimaxL 4 [some O, some O, none, some X, none, some X, none, none, some X] O X = (some 2, -1) := rfl

theorem mmv_3278 : minimaxL 5 [some O, some O, none, some X, none, none, none, none, some X] X O = (some 2, 1) := by
  rw [minimaxL_succ 4 [some O, some O, none, some X, none, none, none, none, some X] X O [2, 4, 5, 6, 7] rfl rfl (List.cons_ne_nil _ _)]
  show pickBest [(2, (minimaxL 4 [some O, some O, some X, some X, none, none, none, none, some X] O X).2), (4, (minimaxL 4 [some O, some O, none, some X, some X, none, none, none, some X] O X).2), (5, (minimaxL 4 [some O, some O, none, some X, none, some X, none, none, some X] O X).2), (6, (minimaxL 4 [some O, some O, none, some X, none, none, some X, none, some X] O X).2), (7, (minimaxL 4 [some O, some O, none, some X, none, none, none, some X, some X] O X).2)] X = (some 2, 1)
  rw [mmv_2445, mmv_3279, mmv_3280, mmv_3185, mmv_3238]
  rfl

theorem mmv_3282 : minimaxL 4 [some O, none, some O, some X, some X, none, none, none, some X] O X = (some 1, -1) := rfl

theorem mmv_3283 : minimaxL 4 [some O, none, some O, some X, none, some X, none, none, some X] O X = (some 1, -1) := rfl

theorem mmv_3281 : minimaxL 5 [some O, none, some O, some X, none, none, none, none, some X] X O = (some 1, 0) := by
  rw [minimaxL_succ 4 [some O, none, some O, some X, none, none, none, none, some X] X O [1, 4, 5, 6, 7] rfl rfl (List.cons_ne_nil _ _)]
  show pickBest [(1, (minimaxL 4 [some O, some X, some O, some X, none, none, none, none, some X] O X).2), (4, (minimaxL 4 [some O, none, some O, some X, some X, none, none, none, some X] O X).2), (5, (minimaxL 4 [some O, none, some O, some X, none, some X, none, none, some X] O X).2), (6, (minimaxL 4 [some O, none, some O, some X, none, none, some X, none, some X] O X).2), (7, (minimaxL 4 [some O, none, some O, some X, none, none, none, some X, some X] O X).2)] X = (some 1, 0)
  rw [mmv_1426, mmv_3282, mmv_3283, mmv_3190, mmv_3242]
  rfl

theorem mmv_3284 : minimaxL 5 [some O, none, none, some X, some O, none, none, none, some X] X O = (some 7, 0) := by
  rw [minimaxL_succ 4 [some O, none, none, some X, some O, none, none, none, some X] X O [1, 2, 5, 6, 7] rfl rfl (List.cons_ne_nil _ _)]
  show pickBest [(1, (minimaxL 4 [some O, some X, none, some X, some O, none, none, none, some X] O X).2), (2, (minimaxL 4 [some O, none, some X, some X, some O, none, none, none, some X] O X).2), (5, (minimaxL 4 [some O, none, none, some X, some O, some X, none, none, some X] O X).2), (6, (minimaxL 4 [some O, none, none, some X, some O, none, some X, none, some X] O X).2), (7, (minimaxL 4 [some O, none, none, some X, some O, none, none, some X, some X] O X).2)] X = (some 7, 0)
  rw [mmv_1449, mmv_2460, mmv_3170, mmv_3193, mmv_3244]
  rfl

theorem mmv_3285 : minimaxL 5 [some O, none, none, some X, none, some O, none, none, some X] X O = (some 7, 0) := by
  rw [minimaxL_succ 4 [some O, none, none, some X, none, some O, none, none, some X] X O [1, 2, 4, 6, 7] rfl rfl (List.cons_ne_nil _ _)]
  show pickBest [(1, (minimaxL 4 [some O, some X, none, some X, none, some O, none, none, some X] O X).2), (2, (minimaxL 4 [some O, none, some X, some X, none, some O, none, none, some X] O X).2), (4, (minimaxL 4 [some O, none, none, some X, some X, some O, none, none, some X] O X).2), (6, (minimaxL 4 [some O, none, none, some X, none, some O, some X, none, some X] O X).2), (7, (minimaxL 4 [some O, none, none, some X, none, some O, none, some X, some X] O X).2)] X = (some 7, 0)
  rw [mmv_1483, mmv_2489, mmv_3148, mmv_3206, mmv_3251]
  rfl

theorem mmv_3288 : minimaxL 3 [some O, some O, none, some X, some X, none, some O, none, some X] X O = (some 5, 1) := rfl

theorem mmv_3289 : minimaxL 3 [some O, none, some O, some X, some X, none, some O, none, some X] X O = (some 5, 1) := rfl

theorem mmv_3290 : minimaxL 3 [some O, none, none, some X, some X, none, some O, some O, some X] X O = (some 5, 1) := rfl

theorem mmv_3287 : minimaxL 4 [some O, none, none, some X, some X, none, some O, none, some X] O X = (some 5, 0) := by
  rw [minimaxL_succ 3 [some O, none, none, some X, some X, none, some O, none, some X] O X [1, 2, 5, 7] rfl rfl (List.cons_ne_nil _ _)]
  show pickBest [(1, (minimaxL 3 [some O, some O, none, some X, some X, none, some O, none, some X] X O).2), (2, (minimaxL 3 [some O, none, some O, some X, some X, none, some O, none, some X] X O).2), (5, (minimaxL 3 [some O, none, none, some X, some X, some O, some O, none, some X] X O).2), (7, (minimaxL 3 [some O, none, none, some X, some X, none, some O, some O, some X] X O).2)] O = (some 5, 0)
  rw [mmv_3288, mmv_3289, mmv_3153, mmv_3290]
  rfl

theorem mmv_3292 : minimaxL 3 [some O, some O, none, some X, none, some X, some O, none, some X] X O = (some 4, 1) := rfl

theorem mmv_3293 : minimaxL 3 [some O, none, some O, some X, none, some X, some O, none, some X] X O = (some 4, 1) := rfl

theorem mmv_3294 : minimaxL 3 [some O, none, none, some X, none, some X, some O, some O, some X] X O = (some 4, 1) := rfl

theorem mmv_3291 : minimaxL 4 [some O, none, none, some X, none, some X, some O, none, some X] O X = (some 1, 1) := by
  rw [minimaxL_succ 3 [some O, none, none, some X, none, some X, some O, none, some X] O X [1, 2, 4, 7] rfl rfl (List.cons_ne_nil _ _)]
  show pickBest [(1, (minimaxL 3 [some O, some O, none, some X, none, some X, some O, none, some X] X O).2), (2, (minimaxL 3 [some O, none, some O, some X, none, some X, some O, none, some X] X O).2), (4, (minimaxL 3 [some O, none, none, some X, some O, some X, some O, none, some X] X O).2), (7, (minimaxL 3 [some O, none, none, some X, none, some X, some O, some O, some X] X O).2)] O = (some 1, 1)
  rw [mmv_3292, mmv_3293, mmv_3175, mmv_3294]
  rfl

theorem mmv_3286 : minimaxL 5 [some O, none, none, some X, none, none, some O, none, some X] X O = (some 5, 1) := by
  rw [minimaxL_succ 4 [some O, none, none, some X, none, none, some O, none, some X] X O [1, 2, 4, 5, 7] rfl rfl (List.cons_ne_nil _ _)]
  show pickBest [(1, (minimaxL 4 [some O, some X, none, some X, none, none, some O, none, some X] O X).2), (2, (minimaxL 4 [some O, none, some X, some X, none, none, some O, none, some X] O X).2), (4, (minimaxL 4 [some O, none, none, some X, some X, none, some O, none, some X] O X).2), (5, (minimaxL 4 [some O, none, none, some X, none, some X, some O, none, some X] O X).2), (7, (minimaxL 4 [some O, none, none, some X, none, none, some O, some X, some X] O X).2)] X = (some 5, 1)
  rw [mmv_1500, mmv_2509, mmv_3287, mmv_3291, mmv_3265]
  rfl

theorem mmv_3297 : minimaxL 3 [some O, some O, none, some X, some X, none, none, some O, some X] X O = (some 5, 1) := rfl

theorem mmv_3298 : minimaxL 3 [some O, none, some O, some X, some X, none, none, some O, some X] X O = (some 5, 1) := rfl

theorem mmv_3296 : minimaxL 4 [some O, none, none, some X, some X, none, none, some O, some X] O X = (some 5, 0) := by
  rw [minimaxL_succ 3 [some O, none, none, some X, some X, none, none, some O, some X] O X [1, 2, 5, 6] rfl rfl (List.cons_ne_nil _ _)]
  show pickBest [(1, (minimaxL 3 [some O, some O, none, some X, some X, none, none, some O, some X] X O).2), (2, (minimaxL 3 [some O, none, some O, some X, some X, none, none, some O, some X] X O).2), (5, (minimaxL 3 [some O, none, none, some X, some X, some O, none, some O, some X] X O).2), (6, (minimaxL 3 [some O, none, none, some X, some X, none, some O, some O, some X] X O).2)] O = (some 5, 0)
  rw [mmv_3297, mmv_3298, mmv_3157, mmv_3290]
  rfl

theorem mmv_3300 : minimaxL 3 [some O, some O, none, some X, none, some X, none, some O, some X] X O = (some 4, 1) := rfl

theorem mmv_3301 : minimaxL 3 [some O, none, some O, some X, none, some X, none, some O, some X] X O = (some 4, 1) := rfl

theorem mmv_3299 : minimaxL 4 [some O, none, none, some X, none, some X, none, some O, some X] O X = (some 1, 1) := by
  rw [minimaxL_succ 3 [some O, none, none, some X, none, some X, none, some O, some X] O X [1, 2, 4, 6] rfl rfl (List.cons_ne_nil _ _)]
  show pickBest [(1, (minimaxL 3 [some O, some O, none, some X, none, some X, none, some O, some X] X O).2), (2, (minimaxL 3 [some O, none, some O, some X, none, some X, none, some O, some X] X O).2), (4, (minimaxL 3 [some O, none, none, some X, some O, some X, none, some O, some X] X O).2), (6, (minimaxL 3 [some O, none, none, some X, none, some X, some O, some O, some X] X O).2)] O = (some 1, 1)
  rw [mmv_3300, mmv_3301, mmv_3176, mmv_3294]
  rfl

theorem mmv_3295 : minimaxL 5 [some O, none, none, some X, none, none, none, some O, some X] X O = (some 5, 1) := by
  rw [minimaxL_succ 4 [some O, none, none, some X, none, none, none, some O, some X] X O [1, 2, 4, 5, 6] rfl rfl (List.cons_ne_nil _ _)]
  show pickBest [(1, (minimaxL 4 [some O, some X, none, some X, none, none, none, some O, some X] O X).2), (2, (minimaxL 4 [some O, none, some X, some X, none, none, none, some O, some X] O X).2), (4, (minimaxL 4 [some O, none, none, some X, some X, none, none, some O, some X] O X).2), (5, (minimaxL 4 [some O, none, none, some X, none, some X, none, some O, some X] O X).2), (6, (minimaxL 4 [some O, none, none, some X, none, none, some X, some O, some X] O X).2)] X = (some 5, 1)
  rw [mmv_1516, mmv_2522, mmv_3296, mmv_3299, mmv_3220]
  rfl

theorem mmv_3277 : minimaxL 6 [some O, none, none, some X, none, none, none, none, some X] O X = (some 2, 0) := by
  rw [minimaxL_succ 5 [some O, none, none, some X, none, none, none, none, some X] O X [1, 2, 4, 5, 6, 7] rfl rfl (List.cons_ne_nil _ _)]
  show pickBest [(1, (minimaxL 5 [some O, some O, none, some X, none, none, none, none, some X] X O).2), (2, (minimaxL 5 [some O, none, some O, some X, none, none, none, none, some X] X O).2), (4, (minimaxL 5 [some O, none, none, some X, some O, none, none, none, some X] X O).2), (5, (minimaxL 5 [some O, none, none, some X, none, some O, none, none, some X] X O).2), (6, (minimaxL 5 [some O, none, none, some X, none, none, some O, none, some X] X O).2), (7, (minimaxL 5 [some O, none, none, some X, none, none, none, some O, some X] X O).2)] O = (some 2, 0)
  rw [mmv_3278, mmv_3281, mmv_3284, mmv_3285, mmv_3286, mmv_3295]
  rfl

theorem mmv_3129 : minimaxL 7 [some O, none, none, some X, none, none, none, none, none] X O = (some 8, 0) := by
  rw [minimaxL_succ 6 [some O, none, none, some X, none, none, none, none, none] X O [1, 2, 4, 5, 6, 7, 8] rfl rfl (List.cons_ne_nil _ _)]
  show pickBest [(1, (minimaxL 6 [some O, some X, none, some X, none, none, none, none, none] O X).2), (2, (minimaxL 6 [some O, none, some X, some X, none, none, none, none, none] O X).2), (4, (minimaxL 6 [some O, none, none, some X, some X, none, none, none, none] O X).2), (5, (minimaxL 6 [some O, none, none, some X, none, some X, none, none, none] O X).2), (6, (minimaxL 6 [some O, none, none, some X, none, none, some X, none, none] O X).2), (7, (minimaxL 6 [some O, none, none, some X, none, none, none, some X, none] O X).2), (8, (minimaxL 6 [some O, none, none, some X, none, none, none, none, some X] O X).2)] X = (some 8, 0)
  rw [mmv_1380, mmv_2398, mmv_3130, mmv_3164, mmv_3180, mmv_3234, mmv_3277]
  rfl

theorem mmv_3304 : minimaxL 5 [none, some O, some O, some X, some X, none, none, none, none] X O = (some 5, 1) := rfl

theorem mmv_3307 : minimaxL 3 [some X, some O, some O, some X, some X, some O, none, none, none] X O = (some 6, 1) := rfl

theorem mmv_3308 : minimaxL 3 [some X, some O, none, some X, some X, some O, none, some O, none] X O = (some 6, 1) := rfl

theorem mmv_3306 : minimaxL 4 [some X, some O, none, some X, some X, some O, none, none, none] O X = (some 2, 1) := by
  rw [minimaxL_succ 3 [some X, some O, none, some X, some X, some O, none, none, none] O X [2, 6, 7, 8] rfl rfl (List.cons_ne_nil _ _)]
  show pickBest [(2, (minimaxL 3 [some X, some O, some O, some X, some X, some O, none, none, none] X O).2), (6, (minimaxL 3 [some X, some O, none, some X, some X, some O, some O, none, none] X O).2), (7, (minimaxL 3 [some X, some O, none, some X, some X, some O, none, some O, none] X O).2), (8, (minimaxL 3 [some X, some O, none, some X, some X, some O, none, none, some O] X O).2)] O = (some 2, 1)
  rw [mmv_3307, mmv_0186, mmv_3308, mmv_0232]
  rfl

theorem mmv_3310 : minimaxL 3 [none, some O, some O, some X, some X, some O, some X, none, none] X O = (some 0, 1) := rfl

theorem mmv_3311 : minimaxL 3 [none, some O, none, some X, some X, some O, some X, some O, none] X O = (some 0, 1) := rfl

theorem mmv_3312 : minimaxL 3 [none, some O, none, some X, some X, some O, some X, none, some O] X O = (some 0, 1) := rfl

theorem mmv_3309 : minimaxL 4 [none, some O, none, some X, some X, some O, some X, none, none] O X = (some 0, 1) := by
  rw [minimaxL_succ 3 [none, some O, none, some X, some X, some O, some X, none, none] O X [0, 2, 7, 8] rfl rfl (List.cons_ne_nil _ _)]
  show pickBest [(0, (minimaxL 3 [some O, some O, none, some X, some X, some O, some X, none, none] X O).2), (2, (minimaxL 3 [none, some O, some O, some X, some X, some O, some X, none, none] X O).2), (7, (minimaxL 3 [none, some O, none, some X, some X, some O, some X, some O, none] X O).2), (8, (minimaxL 3 [none, some O, none, some X, some X, some O, some X, none, some O] X O).2)] O = (some 0, 1)
  rw [mmv_3135, mmv_3310, mmv_3311, mmv_3312]
  rfl

theorem mmv_3315 : minimaxL 2 [some X, some O, some O, some X, some X, some O, none, some X, none] O X = (some 8, -1) := rfl

theorem mmv_3316 : minimaxL 2 [none, some O, some O, some X, some X, some O, some X, some X, none] O X = (some 0, -1) := rfl

theorem mmv_3317 : minimaxL 2 [none, some O, some O, some X, some X, some O, none, some X, some X] O X = (some 0, -1) := rfl

theorem mmv_3314 : minimaxL 3 [none, some O, some O, some X, some X, some O, none, some X, none] X O = (some 8, -1) := by
  rw [minimaxL_succ 2 [none, some O, some O, some X, some X, some O, none, some X, none] X O [0, 6, 8] rfl rfl (List.cons_ne_nil _ _)]
  show pickBest [(0, (minimaxL 2 [some X, some O, some O, some X, some X, some O, none, some X, none] O X).2), (6, (minimaxL 2 [none, some O, some O, some X, some X, some O, some X, some X, none] O X).2), (8, (minimaxL 2 [none, some O, some O, some X, some X, some O, none, some X, some X] O X).2)] X = (some 8, -1)
  rw [mmv_3315, mmv_3316, mmv_3317]
  rfl

theorem mmv_3320 : minimaxL 1 [none, some O, some O, some X, some X, some O, some O, some X, some X] X O = (some 0, 1) := rfl

theorem mmv_3319 : minimaxL 2 [none, some O, none, some X, some X, some O, some O, some X, some X] O X = (some 0, 0) := by
  rw [minimaxL_succ 1 [none, some O, none, some X, some X, some O, some O, some X, some X] O X [0, 2] rfl rfl (List.cons_ne_nil _ _)]
  show pickBest [(0, (minimaxL 1 [some O, some O, none, some X, some X, some O, some O, some X, some X] X O).2), (2, (minimaxL 1 [none, some O, some O, some X, some X, some O, some O, some X, some X] X O).2)] O = (some 0, 0)
  rw [mmv_3155, mmv_3320]
  rfl

theorem mmv_3318 : minimaxL 3 [none, some O, none, some X, some X, some O, some O, some X, none] X O = (some 8, 0) := by
  rw [minimaxL_succ 2 [none, some O, none, some X, some X, some O, some O, some X, none] X O [0, 2, 8] rfl rfl (List.cons_ne_nil _ _)]
  show pickBest [(0, (minimaxL 2 [some X, some O, none, some X, some X, some O, some O, some X, none] O X).2), (2, (minimaxL 2 [none, some O, some X, some X, some X, some O, some O, some X, none] O X).2), (8, (minimaxL 2 [none, some O, none, some X, some X, some O, some O, some X, some X] O X).2)] X = (some 8, 0)
  rw [mmv_0206, mmv_2666, mmv_3319]
  rfl

theorem mmv_3322 : minimaxL 2 [none, some O, none, some X, some X, some O, some X, some X, some O] O X = (some 2, -1) := rfl

theorem mmv_3321 : minimaxL 3 [none, some O, none, some X, some X, some O, none, some X, some O] X O = (some 2, 0) := by
  rw [minimaxL_succ 2 [none, some O, none, some X, some X, some O, none, some X, some O] X O [0, 2, 6] rfl rfl (List.cons_ne_nil _ _)]
  show pickBest [(0, (minimaxL 2 [some X, some O, none, some X, some X, some O, none, some X, some O] O X).2), (2, (minimaxL 2 [none, some O, some X, some X, some X, some O, none, some X, some O] O X).2), (6, (minimaxL 2 [none, some O, none, some X, some X, some O, some X, some X, some O] O X).2)] X = (some 2, 0)
  rw [mmv_0262, mmv_2680, mmv_3322]
  rfl

theorem mmv_3313 : minimaxL 4 [none, some O, none, some X, some X, some O, none, some X, none] O X = (some 2, -1) := by
  rw [minimaxL_succ 3 [none, some O, none, some X, some X, some O, none, some X, none] O X [0, 2, 6, 8] rfl rfl (List.cons_ne_nil _ _)]
  show pickBest [(0, (minimaxL 3 [some O, some O, none, some X, some X, some O, none, some X, none] X O).2), (2, (minimaxL 3 [none, some O, some O, some X, some X, some O, none, some X, none] X O).2), (6, (minimaxL 3 [none, some O, none, some X, some X, some O, some O, some X, none] X O).2), (8, (minimaxL 3 [none, some O, none, some X, some X, some O, none, some X, some O] X O).2)] O = (some 2, -1)
  rw [mmv_3142, mmv_3314, mmv_3318, mmv_3321]
  rfl

theorem mmv_3324 : minimaxL 3 [none, some O, some O, some X, some X, some O, none, none, some X] X O = (some 0, 1) := rfl

theorem mmv_3325 : minimaxL 3 [none, some O, none, some X, some X, some O, some O, none, some X] X O = (some 0, 1) := rfl

theorem mmv_3326 : minimaxL 3 [none, some O, none, some X, some X, some O, none, some O, some X] X O = (some 0, 1) := rfl

theorem mmv_3323 : minimaxL 4 [none, some O, none, some X, some X, some O, none, none, some X] O X = (some 0, 0) := by
  rw [minimaxL_succ 3 [none, some O, none, some X, some X, some O, none, none, some X] O X [0, 2, 6, 7] rfl rfl (List.cons_ne_nil _ _)]
  show pickBest [(0, (minimaxL 3 [some O, some O, none, some X, some X, some O, none, none, some X] X O).2), (2, (minimaxL 3 [none, some O, some O, some X, some X, some O, none, none, some X] X O).2), (6, (minimaxL 3 [none, some O, none, some X, some X, some O, some O, none, some X] X O).2), (7, (minimaxL 3 [none, some O, none, some X, some X, some O, none, some O, some X] X O).2)] O = (some 0, 0)
  rw [mmv_3149, mmv_3324, mmv_3325, mmv_3326]
  rfl

theorem mmv_3305 : minimaxL 5 [none, some O, none, some X, some X, some O, none, none, none] X O = (some 6, 1) := by
  rw [minimaxL_succ 4 [none, some O, none, some X, some X, some O, none, none, none] X O [0, 2, 6, 7, 8] rfl rfl (List.cons_ne_nil _ _)]
  show pickBest [(0, (minimaxL 4 [some X, some O, none, some X, some X, some O, none, none, none] O X).2), (2, (minimaxL 4 [none, some O, some X, some X, some X, some O, none, none, none] O X).2), (6, (minimaxL 4 [none, some O, none, some X, some X, some O, some X, none, none] O X).2), (7, (minimaxL 4 [none, some O, none, some X, some X, some O, none, some X, none] O X).2), (8, (minimaxL 4 [none, some O, none, some X, some X, some O, none, none, some X] O X).2)] X = (some 6, 1)
  rw [mmv_3306, mmv_2664, mmv_3309, mmv_3313, mmv_3323]
  rfl

theorem mmv_3327 : minimaxL 5 [none, some O, none, some X, some X, none, some O, none, none] X O = (some 5, 1) := rfl

theorem mmv_3328 : minimaxL 5 [none, some O, none, some X, some X, none, none, some O, none] X O = (some 5, 1) := rfl

theorem mmv_3329 : minimaxL 5 [none, some O, none, some X, some X, none, none, none, some O] X O = (some 5, 1) := rfl

theorem mmv_3303 : minimaxL 6 [none, some O, none, some X, some X, none, none, none, none] O X = (some 0, 1) := by
  rw [minimaxL_succ 5 [none, some O, none, some X, some X, none, none, none, none] O X [0, 2, 5, 6, 7, 8] rfl rfl (List.cons_ne_nil _ _)]
  show pickBest [(0, (minimaxL 5 [some O, some O, none, some X, some X, none, none, none, none] X O).2), (2, (minimaxL 5 [none, some O, some O, some X, some X, none, none, none, none] X O).2), (5, (minimaxL 5 [none, some O, none, some X, some X, some O, none, none, none] X O).2), (6, (minimaxL 5 [none, some O, none, some X, some X, none, some O, none, none] X O).2), (7, (minimaxL 5 [none, some O, none, some X, some X, none, none, some O, none] X O).2), (8, (minimaxL 5 [none, some O, none, some X, some X, none, none, none, some O] X O).2)] O = (some 0, 1)
  rw [mmv_3131, mmv_3304, mmv_3305, mmv_3327, mmv_3328, mmv_3329]
  rfl

theorem mmv_3331 : minimaxL 5 [none, some O, some O, some X, none, some X, none, none, none] X O = (some 4, 1) := rfl

theorem mmv_3333 : minimaxL 4 [none, some O, none, some X, some O, some X, some X, none, none] O X = (some 7, -1) := rfl

theorem mmv_3336 : minimaxL 2 [some O, some O, none, some X, some O, some X, some X, some X, none] O X = (some 2, -1) := rfl

theorem mmv_3337 : minimaxL 2 [some O, some O, none, some X, some O, some X, none, some X, some X] O X = (some 2, -1) := rfl

theorem mmv_3335 : minimaxL 3 [some O, some O, none, some X, some O, some X, none, some X, none] X O = (some 8, -1) := by
  rw [minimaxL_succ 2 [some O, some O, none, some X, some O, some X, none, some X, none] X O [2, 6, 8] rfl rfl (List.cons_ne_nil _ _)]
  show pickBest [(2, (minimaxL 2 [some O, some O, some X, some X, some O, some X, none, some X, none] O X).2), (6, (minimaxL 2 [some O, some O, none, some X, some O, some X, some X, some X, none] O X).2), (8, (minimaxL 2 [some O, some O, none, some X, some O, some X, none, some X, some X] O X).2)] X = (some 8, -1)
  rw [mmv_2420, mmv_3336, mmv_3337]
  rfl

theorem mmv_3339 : minimaxL 2 [none, some O, some O, some X, some O, some X, some X, some X, none] O X = (some 0, -1) := rfl

theorem mmv_3340 : minimaxL 2 [none, some O, some O, some X, some O, some X, none, some X, some X] O X = (some 0, -1) := rfl

theorem mmv_3338 : minimaxL 3 [none, some O, some O, some X, some O, some X, none, some X, none] X O = (some 8, -1) := by
  rw [minimaxL_succ 2 [none, some O, some O, some X, some O, some X, none, some X, none] X O [0, 6, 8] rfl rfl (List.cons_ne_nil _ _)]
  show pickBest [(0, (minimaxL 2 [some X, some O, some O, some X, some O, some X, none, some X, none] O X).2), (6, (minimaxL 2 [none, some O, some O, some X, some O, some X, some X, some X, none] O X).2), (8, (minimaxL 2 [none, some O, some O, some X, some O, some X, none, some X, some X] O X).2)] X = (some 8, -1)
  rw [mmv_0297, mmv_3339, mmv_3340]
  rfl

theorem mmv_3342 : minimaxL 2 [none, some O, none, some X, some O, some X, some O, some X, some X] O X = (some 2, -1) := rfl

theorem mmv_3341 : minimaxL 3 [none, some O, none, some X, some O, some X, some O, some X, none] X O = (some 2, 0) := by
  rw [minimaxL_succ 2 [none, some O, none, some X, some O, some X, some O, some X, none] X O [0, 2, 8] rfl rfl (List.cons_ne_nil _ _)]
  show pickBest [(0, (minimaxL 2 [some X, some O, none, some X, some O, some X, some O, some X, none] O X).2), (2, (minimaxL 2 [none, some O, some X, some X, some O, some X, some O, some X, none] O X).2), (8, (minimaxL 2 [none, some O, none, some X, some O, some X, some O, some X, some X] O X).2)] X = (some 2, 0)
  rw [mmv_0192, mmv_2656, mmv_3342]
  rfl

theorem mmv_3344 : minimaxL 2 [none, some O, none, some X, some O, some X, some X, some X, some O] O X = (some 0, -1) := rfl

theorem mmv_3343 : minimaxL 3 [none, some O, none, some X, some O, some X, none, some X, some O] X O = (some 0, 0) := by
  rw [minimaxL_succ 2 [none, some O, none, some X, some O, some X, none, some X, some O] X O [0, 2, 6] rfl rfl (List.cons_ne_nil _ _)]
  show pickBest [(0, (minimaxL 2 [some X, some O, none, some X, some O, some X, none, some X, some O] O X).2), (2, (minimaxL 2 [none, some O, some X, some X, some O, some X, none, some X, some O] O X).2), (6, (minimaxL 2 [none, some O, none, some X, some O, some X, some X, some X, some O] O X).2)] X = (some 0, 0)
  rw [mmv_0349, mmv_2660, mmv_3344]
  rfl

theorem mmv_3334 : minimaxL 4 [none, some O, none, some X, some O, some X, none, some X, none] O X = (some 0, -1) := by
  rw [minimaxL_succ 3 [none, some O, none, some X, some O, some X, none, some X, none] O X [0, 2, 6, 8] rfl rfl (List.cons_ne_nil _ _)]
  show pickBest [(0, (minimaxL 3 [some O, some O, none, some X, some O, some X, none, some X, none] X O).2), (2, (minimaxL 3 [none, some O, some O, some X, some O, some X, none, some X, none] X O).2), (6, (minimaxL 3 [none, some O, none, some X, some O, some X, some O, some X, none] X O).2), (8, (minimaxL 3 [none, some O, none, some X, some O, some X, none, some X, some O] X O).2)] O = (some 0, -1)
  rw [mmv_3335, mmv_3338, mmv_3341, mmv_3343]
  rfl

theorem mmv_3345 : minimaxL 4 [none, some O, none, some X, some O, some X, none, none, some X] O X = (some 7, -1) := rfl

theorem mmv_3332 : minimaxL 5 [none, some O, none, some X, some O, some X, none, none, none] X O = (some 8, -1) := by
  rw [minimaxL_succ 4 [none, some O, none, some X, some O, some X, none, none, none] X O [0, 2, 6, 7, 8] rfl rfl (List.cons_ne_nil _ _)]
  show pickBest [(0, (minimaxL 4 [some X, some O, none, some X, some O, some X, none, none, none] O X).2), (2, (minimaxL 4 [none, some O, some X, some X, some O, some X, none, none, none] O X).2), (6, (minimaxL 4 [none, some O, none, some X, some O, some X, some X, none, none] O X).2), (7, (minimaxL 4 [none, some O, none, some X, some O, some X, none, some X, none] O X).2), (8, (minimaxL 4 [none, some O, none, some X, some O, some X, none, none, some X] O X).2)] X = (some 8, -1)
  rw [mmv_0343, mmv_2647, mmv_3333, mmv_3334, mmv_3345]
  rfl

theorem mmv_3346 : minimaxL 5 [none, some O, none, some X, none, some X, some O, none, none] X O = (some 4, 1) := rfl

theorem mmv_3347 : minimaxL 5 [none, some O, none, some X, none, some X, none, some O, none] X O = (some 4, 1) := rfl

theorem mmv_3348 : minimaxL 5 [none, some O, none, some X, none, some X, none, none, some O] X O = (some 4, 1) := rfl

theorem mmv_3330 : minimaxL 6 [none, some O, none, some X, none, some X, none, none, none] O X = (some 4, -1) := by
  rw [minimaxL_succ 5 [none, some O, none, some X, none, some X, none, none, none] O X [0, 2, 4, 6, 7, 8] rfl rfl (List.cons_ne_nil _ _)]
  show pickBest [(0, (minimaxL 5 [some O, some O, none, some X, none, some X, none, none, none] X O).2), (2, (minimaxL 5 [none, some O, some O, some X, none, some X, none, none, none] X O).2), (4, (minimaxL 5 [none, some O, none, some X, some O, some X, none, none, none] X O).2), (6, (minimaxL 5 [none, some O, none, some X, none, some X, some O, none, none] X O).2), (7, (minimaxL 5 [none, some O, none, some X, none, some X, none, some O, none] X O).2), (8, (minimaxL 5 [none, some O, none, some X, none, some X, none, none, some O] X O).2)] O = (some 4, -1)
  rw [mmv_3165, mmv_3331, mmv_3332, mmv_3346, mmv_3347, mmv_3348]
  rfl

theorem mmv_3350 : minimaxL 5 [none, some O, some O, some X, none, none, some X, none, none] X O = (some 0, 1) := rfl

theorem mmv_3351 : minimaxL 5 [none, some O, none, some X, some O, none, some X, none, none] X O = (some 0, 1) := rfl

theorem mmv_3352 : minimaxL 5 [none, some O, none, some X, none, some O, some X, none, none] X O = (some 0, 1) := rfl

theorem mmv_3353 : minimaxL 5 [none, some O, none, some X, none, none, some X, some O, none] X O = (some 0, 1) := rfl

theorem mmv_3354 : minimaxL 5 [none, some O, none, some X, none, none, some X, none, some O] X O = (some 0, 1) := rfl

theorem mmv_3349 : minimaxL 6 [none, some O, none, some X, none, none, some X, none, none] O X = (some 0, -1) := by
  rw [minimaxL_succ 5 [none, some O, none, some X, none, none, some X, none, none] O X [0, 2, 4, 5, 7, 8] rfl rfl (List.cons_ne_nil _ _)]
  show pickBest [(0, (minimaxL 5 [some O, some O, none, some X, none, none, some X, none, none] X O).2), (2, (minimaxL 5 [none, some O, some O, some X, none, none, some X, none, none] X O).2), (4, (minimaxL 5 [none, some O, none, some X, some O, none, some X, none, none] X O).2), (5, (minimaxL 5 [none, some O, none, some X, none, some O, some X, none, none] X O).2), (7, (minimaxL 5 [none, some O, none, some X, none, none, some X, some O, none] X O).2), (8, (minimaxL 5 [none, some O, none, some X, none, none, some X, none, some O] X O).2)] O = (some 0, -1)
  rw [mmv_3181, mmv_3350, mmv_3351, mmv_3352, mmv_3353, mmv_3354]
  rfl

theorem mmv_3357 : minimaxL 4 [none, some O, some O, some X, some X, none, none, some X, none] O X = (some 0, -1) := rfl

theorem mmv_3358 : minimaxL 4 [none, some O, some O, some X, none, some X, none, some X, none] O X = (some 0, -1) := rfl

theorem mmv_3359 : minimaxL 4 [none, some O, some O, some X, none, none, some X, some X, none] O X = (some 0, -1) := rfl

theorem mmv_3360 : minimaxL 4 [none, some O, some O, some X, none, none, none, some X, some X] O X = (some 0, -1) := rfl

theorem mmv_3356 : minimaxL 5 [none, some O, some O, some X, none, none, none, some X, none] X O = (some 0, 1) := by
  rw [minimaxL_succ 4 [none, some O, some O, some X, none, none, none, some X, none] X O [0, 4, 5, 6, 8] rfl rfl (List.cons_ne_nil _ _)]
  show pickBest [(0, (minimaxL 4 [some X, some O, some O, some X, none, none, none, some X, none] O X).2), (4, (minimaxL 4 [none, some O, some O, some X, some X, none, none, some X, none] O X).2), (5, (minimaxL 4 [none, some O, some O, some X, none, some X, none, some X, none] O X).2), (6, (minimaxL 4 [none, some O, some O, some X, none, none, some X, some X, none] O X).2), (8, (minimaxL 4 [none, some O, some O, some X, none, none, none, some X, some X] O X).2)] X = (some 0, 1)
  rw [mmv_0396, mmv_3357, mmv_3358, mmv_3359, mmv_3360]
  rfl

theorem mmv_3363 : minimaxL 3 [some O, some O, none, some X, some O, none, some X, some X, none] X O = (some 8, 1) := rfl

theorem mmv_3364 : minimaxL 3 [none, some O, some O, some X, some O, none, some X, some X, none] X O = (some 0, 1) := rfl

theorem mmv_3365 : minimaxL 3 [none, some O, none, some X, some O, some O, some X, some X, none] X O = (some 0, 1) := rfl

theorem mmv_3366 : minimaxL 3 [none, some O, none, some X, some O, none, some X, some X, some O] X O = (some 0, 1) := rfl

theorem mmv_3362 : minimaxL 4 [none, some O, none, some X, some O, none, some X, some X, none] O X = (some 0, 1) := by
  rw [minimaxL_succ 3 [none, some O, none, some X, some O, none, some X, some X, none] O X [0, 2, 5, 8] rfl rfl (List.cons_ne_nil _ _)]
  show pickBest [(0, (minimaxL 3 [some O, some O, none, some X, some O, none, some X, some X, none] X O).2), (2, (minimaxL 3 [none, some O, some O, some X, some O, none, some X, some X, none] X O).2), (5, (minimaxL 3 [none, some O, none, some X, some O, some O, some X, some X, none] X O).2), (8, (minimaxL 3 [none, some O, none, some X, some O, none, some X, some X, some O] X O).2)] O = (some 0, 1)
  rw [mmv_3363, mmv_3364, mmv_3365, mmv_3366]
  rfl

theorem mmv_3368 : minimaxL 3 [none, some O, some O, some X, some O, none, none, some X, some X] X O = (some 6, 1) := rfl

theorem mmv_3369 : minimaxL 3 [none, some O, none, some X, some O, some O, none, some X, some X] X O = (some 6, 1) := rfl

theorem mmv_3370 : minimaxL 3 [none, some O, none, some X, some O, none, some O, some X, some X] X O = (some 2, 0) := by
  rw [minimaxL_succ 2 [none, some O, none, some X, some O, none, some O, some X, some X] X O [0, 2, 5] rfl rfl (List.cons_ne_nil _ _)]
  show pickBest [(0, (minimaxL 2 [some X, some O, none, some X, some O, none, some O, some X, some X] O X).2), (2, (minimaxL 2 [none, some O, some X, some X, some O, none, some O, some X, some X] O X).2), (5, (minimaxL 2 [none, some O, none, some X, some O, some X, some O, some X, some X] O X).2)] X = (some 2, 0)
  rw [mmv_0204, mmv_2658, mmv_3342]
  rfl

theorem mmv_3367 : minimaxL 4 [none, some O, none, some X, some O, none, none, some X, some X] O X = (some 6, 0) := by
  rw [minimaxL_succ 3 [none, some O, none, some X, some O, none, none, some X, some X] O X [0, 2, 5, 6] rfl rfl (List.cons_ne_nil _ _)]
  show pickBest [(0, (minimaxL 3 [some O, some O, none, some X, some O, none, none, some X, some X] X O).2), (2, (minimaxL 3 [none, some O, some O, some X, some O, none, none, some X, some X] X O).2), (5, (minimaxL 3 [none, some O, none, some X, some O, some O, none, some X, some X] X O).2), (6, (minimaxL 3 [none, some O, none, some X, some O, none, some O, some X, some X] X O).2)] O = (some 6, 0)
  rw [mmv_3245, mmv_3368, mmv_3369, mmv_3370]
  rfl

theorem mmv_3361 : minimaxL 5 [none, some O, none, some X, some O, none, none, some X, none] X O = (some 6, 1) := by
  rw [minimaxL_succ 4 [none, some O, none, some X, some O, none, none, some X, none] X O [0, 2, 5, 6, 8] rfl rfl (List.cons_ne_nil _ _)]
  show pickBest [(0, (minimaxL 4 [some X, some O, none, some X, some O, none, none, some X, none] O X).2), (2, (minimaxL 4 [none, some O, some X, some X, some O, none, none, some X, none] O X).2), (5, (minimaxL 4 [none, some O, none, some X, some O, some X, none, some X, none] O X).2), (6, (minimaxL 4 [none, some O, none, some X, some O, none, some X, some X, none] O X).2), (8, (minimaxL 4 [none, some O, none, some X, some O, none, none, some X, some X] O X).2)] X = (some 6, 1)
  rw [mmv_0422, mmv_2649, mmv_3334, mmv_3362, mmv_3367]
  rfl

theorem mmv_3373 : minimaxL 3 [none, some O, some O, some X, none, some O, some X, some X, none] X O = (some 0, 1) := rfl

theorem mmv_3374 : minimaxL 3 [none, some O, none, some X, none, some O, some X, some X, some O] X O = (some 0, 1) := rfl

theorem mmv_3372 : minimaxL 4 [none, some O, none, some X, none, some O, some X, some X, none] O X = (some 0, 1) := by
  rw [minimaxL_succ 3 [none, some O, none, some X, none, some O, some X, some X, none] O X [0, 2, 4, 8] rfl rfl (List.cons_ne_nil _ _)]
  show pickBest [(0, (minimaxL 3 [some O, some O, none, some X, none, some O, some X, some X, none] X O).2), (2, (minimaxL 3 [none, some O, some O, some X, none, some O, some X, some X, none] X O).2), (4, (minimaxL 3 [none, some O, none, some X, some O, some O, some X, some X, none] X O).2), (8, (minimaxL 3 [none, some O, none, some X, none, some O, some X, some X, some O] X O).2)] O = (some 0, 1)
  rw [mmv_3201, mmv_3373, mmv_3365, mmv_3374]
  rfl

theorem mmv_3376 : minimaxL 3 [none, some O, some O, some X, none, some O, none, some X, some X] X O = (some 6, 1) := rfl

theorem mmv_3377 : minimaxL 3 [none, some O, none, some X, none, some O, some O, some X, some X] X O = (some 4, 0) := by
  rw [minimaxL_succ 2 [none, some O, none, some X, none, some O, some O, some X, some X] X O [0, 2, 4] rfl rfl (List.cons_ne_nil _ _)]
  show pickBest [(0, (minimaxL 2 [some X, some O, none, some X, none, some O, some O, some X, some X] O X).2), (2, (minimaxL 2 [none, some O, some X, some X, none, some O, some O, some X, some X] O X).2), (4, (minimaxL 2 [none, some O, none, some X, some X, some O, some O, some X, some X] O X).2)] X = (some 4, 0)
  rw [mmv_0208, mmv_2678, mmv_3319]
  rfl

theorem mmv_3375 : minimaxL 4 [none, some O, none, some X, none, some O, none, some X, some X] O X = (some 6, 0) := by
  rw [minimaxL_succ 3 [none, some O, none, some X, none, some O, none, some X, some X] O X [0, 2, 4, 6] rfl rfl (List.cons_ne_nil _ _)]
  show pickBest [(0, (minimaxL 3 [some O, some O, none, some X, none, some O, none, some X, some X] X O).2), (2, (minimaxL 3 [none, some O, some O, some X, none, some O, none, some X, some X] X O).2), (4, (minimaxL 3 [none, some O, none, some X, some O, some O, none, some X, some X] X O).2), (6, (minimaxL 3 [none, some O, none, some X, none, some O, some O, some X, some X] X O).2)] O = (some 6, 0)
  rw [mmv_3252, mmv_3376, mmv_3369, mmv_3377]
  rfl

theorem mmv_3371 : minimaxL 5 [none, some O, none, some X, none, some O, none, some X, none] X O = (some 6, 1) := by
  rw [minimaxL_succ 4 [none, some O, none, some X, none, some O, none, some X, none] X O [0, 2, 4, 6, 8] rfl rfl (List.cons_ne_nil _ _)]
  show pickBest [(0, (minimaxL 4 [some X, some O, none, some X, none, some O, none, some X, none] O X).2), (2, (minimaxL 4 [none, some O, some X, some X, none, some O, none, some X, none] O X).2), (4, (minimaxL 4 [none, some O, none, some X, some X, some O, none, some X, none] O X).2), (6, (minimaxL 4 [none, some O, none, some X, none, some O, some X, some X, none] O X).2), (8, (minimaxL 4 [none, some O, none, some X, none, some O, none, some X, some X] O X).2)] X = (some 6, 1)
  rw [mmv_0432, mmv_2676, mmv_3313, mmv_3372, mmv_3375]
  rfl

theorem mmv_3380 : minimaxL 3 [none, some O, some O, some X, some X, none, some O, some X, none] X O = (some 5, 1) := rfl

theorem mmv_3381 : minimaxL 3 [none, some O, none, some X, some X, none, some O, some X, some O] X O = (some 5, 1) := rfl

theorem mmv_3379 : minimaxL 4 [none, some O, none, some X, some X, none, some O, some X, none] O X = (some 5, 0) := by
  rw [minimaxL_succ 3 [none, some O, none, some X, some X, none, some O, some X, none] O X [0, 2, 5, 8] rfl rfl (List.cons_ne_nil _ _)]
  show pickBest [(0, (minimaxL 3 [some O, some O, none, some X, some X, none, some O, some X, none] X O).2), (2, (minimaxL 3 [none, some O, some O, some X, some X, none, some O, some X, none] X O).2), (5, (minimaxL 3 [none, some O, none, some X, some X, some O, some O, some X, none] X O).2), (8, (minimaxL 3 [none, some O, none, some X, some X, none, some O, some X, some O] X O).2)] O = (some 5, 0)
  rw [mmv_3257, mmv_3380, mmv_3318, mmv_3381]
  rfl

theorem mmv_3383 : minimaxL 3 [none, some O, some O, some X, none, some X, some O, some X, none] X O = (some 4, 1) := rfl

theorem mmv_3384 : minimaxL 3 [none, some O, none, some X, none, some X, some O, some X, some O] X O = (some 4, 1) := rfl

theorem mmv_3382 : minimaxL 4 [none, some O, none, some X, none, some X, some O, some X, none] O X = (some 4, 0) := by
  rw [minimaxL_succ 3 [none, some O, none, some X, none, some X, some O, some X, none] O X [0, 2, 4, 8] rfl rfl (List.cons_ne_nil _ _)]
  show pickBest [(0, (minimaxL 3 [some O, some O, none, some X, none, some X, some O, some X, none] X O).2), (2, (minimaxL 3 [none, some O, some O, some X, none, some X, some O, some X, none] X O).2), (4, (minimaxL 3 [none, some O, none, some X, some O, some X, some O, some X, none] X O).2), (8, (minimaxL 3 [none, some O, none, some X, none, some X, some O, some X, some O] X O).2)] O = (some 4, 0)
  rw [mmv_3261, mmv_3383, mmv_3341, mmv_3384]
  rfl

theorem mmv_3387 : minimaxL 2 [none, some O, some O, some X, some X, none, some O, some X, some X] O X = (some 0, -1) := rfl

theorem mmv_3388 : minimaxL 2 [none, some O, some O, some X, none, some X, some O, some X, some X] O X = (some 0, -1) := rfl

theorem mmv_3386 : minimaxL 3 [none, some O, some O, some X, none, none, some O, some X, some X] X O = (some 5, -1) := by
  rw [minimaxL_succ 2 [none, some O, some O, some X, none, none, some O, some X, some X] X O [0, 4, 5] rfl rfl (List.cons_ne_nil _ _)]
  show pickBest [(0, (minimaxL 2 [some X, some O, some O, some X, none, none, some O, some X, some X] O X).2), (4, (minimaxL 2 [none, some O, some O, some X, some X, none, some O, some X, some X] O X).2), (5, (minimaxL 2 [none, some O, some O, some X, none, some X, some O, some X, some X] O X).2)] X = (some 5, -1)
  rw [mmv_0202, mmv_3387, mmv_3388]
  rfl

theorem mmv_3385 : minimaxL 4 [none, some O, none, some X, none, none, some O, some X, some X] O X = (some 2, -1) := by
  rw [minimaxL_succ 3 [none, some O, none, some X, none, none, some O, some X, some X] O X [0, 2, 4, 5] rfl rfl (List.cons_ne_nil _ _)]
  show pickBest [(0, (minimaxL 3 [some O, some O, none, some X, none, none, some O, some X, some X] X O).2), (2, (minimaxL 3 [none, some O, some O, some X, none, none, some O, some X, some X] X O).2), (4, (minimaxL 3 [none, some O, none, some X, some O, none, some O, some X, some X] X O).2), (5, (minimaxL 3 [none, some O, none, some X, none, some O, some O, some X, some X] X O).2)] O = (some 2, -1)
  rw [mmv_3266, mmv_3386, mmv_3370, mmv_3377]
  rfl

theorem mmv_3378 : minimaxL 5 [none, some O, none, some X, none, none, some O, some X, none] X O = (some 5, 0) := by
  rw [minimaxL_succ 4 [none, some O, none, some X, none, none, some O, some X, none] X O [0, 2, 4, 5, 8] rfl rfl (List.cons_ne_nil _ _)]
  show pickBest [(0, (minimaxL 4 [some X, some O, none, some X, none, none, some O, some X, none] O X).2), (2, (minimaxL 4 [none, some O, some X, some X, none, none, some O, some X, none] O X).2), (4, (minimaxL 4 [none, some O, none, some X, some X, none, some O, some X, none] O X).2), (5, (minimaxL 4 [none, some O, none, some X, none, some X, some O, some X, none] O X).2), (8, (minimaxL 4 [none, some O, none, some X, none, none, some O, some X, some X] O X).2)] X = (some 5, 0)
  rw [mmv_0196, mmv_2698, mmv_3379, mmv_3382, mmv_3385]
  rfl

theorem mmv_3391 : minimaxL 3 [none, some O, some O, some X, some X, none, none, some X, some O] X O = (some 5, 1) := rfl

theorem mmv_3390 : minimaxL 4 [none, some O, none, some X, some X, none, none, some X, some O] O X = (some 5, 0) := by
  rw [minimaxL_succ 3 [none, some O, none, some X, some X, none, none, some X, some O] O X [0, 2, 5, 6] rfl rfl (List.cons_ne_nil _ _)]
  show pickBest [(0, (minimaxL 3 [some O, some O, none, some X, some X, none, none, some X, some O] X O).2), (2, (minimaxL 3 [none, some O, some O, some X, some X, none, none, some X, some O] X O).2), (5, (minimaxL 3 [none, some O, none, some X, some X, some O, none, some X, some O] X O).2), (6, (minimaxL 3 [none, some O, none, some X, some X, none, some O, some X, some O] X O).2)] O = (some 5, 0)
  rw [mmv_3274, mmv_3391, mmv_3321, mmv_3381]
  rfl

theorem mmv_3393 : minimaxL 3 [some O, some O, none, some X, none, some X, none, some X, some O] X O = (some 4, 1) := rfl

theorem mmv_3394 : minimaxL 3 [none, some O, some O, some X, none, some X, none, some X, some O] X O = (some 4, 1) := rfl

theorem mmv_3392 : minimaxL 4 [none, some O, none, some X, none, some X, none, some X, some O] O X = (some 4, 0) := by
  rw [minimaxL_succ 3 [none, some O, none, some X, none, some X, none, some X, some O] O X [0, 2, 4, 6] rfl rfl (List.cons_ne_nil _ _)]
  show pickBest [(0, (minimaxL 3 [some O, some O, none, some X, none, some X, none, some X, some O] X O).2), (2, (minimaxL 3 [none, some O, some O, some X, none, some X, none, some X, some O] X O).2), (4, (minimaxL 3 [none, some O, none, some X, some O, some X, none, some X, some O] X O).2), (6, (minimaxL 3 [none, some O, none, some X, none, some X, some O, some X, some O] X O).2)] O = (some 4, 0)
  rw [mmv_3393, mmv_3394, mmv_3343, mmv_3384]
  rfl

theorem mmv_3397 : minimaxL 2 [some O, some O, none, some X, some X, none, some X, some X, some O] O X = (some 2, -1) := rfl

theorem mmv_3398 : minimaxL 2 [some O, some O, none, some X, none, some X, some X, some X, some O] O X = (some 2, -1) := rfl

theorem mmv_3396 : minimaxL 3 [some O, some O, none, some X, none, none, some X, some X, some O] X O = (some 5, -1) := by
  rw [minimaxL_succ 2 [some O, some O, none, some X, none, none, some X, some X, some O] X O [2, 4, 5] rfl rfl (List.cons_ne_nil _ _)]
  show pickBest [(2, (minimaxL 2 [some O, some O, some X, some X, none, none, some X, some X, some O] O X).2), (4, (minimaxL 2 [some O, some O, none, some X, some X, none, some X, some X, some O] O X).2), (5, (minimaxL 2 [some O, some O, none, some X, none, some X, some X, some X, some O] O X).2)] X = (some 5, -1)
  rw [mmv_2444, mmv_3397, mmv_3398]
  rfl

theorem mmv_3399 : minimaxL 3 [none, some O, some O, some X, none, none, some X, some X, some O] X O = (some 0, 1) := rfl

theorem mmv_3395 : minimaxL 4 [none, some O, none, some X, none, none, some X, some X, some O] O X = (some 0, -1) := by
  rw [minimaxL_succ 3 [none, some O, none, some X, none, none, some X, some X, some O] O X [0, 2, 4, 5] rfl rfl (List.cons_ne_nil _ _)]
  show pickBest [(0, (minimaxL 3 [some O, some O, none, some X, none, none, some X, some X, some O] X O).2), (2, (minimaxL 3 [none, some O, some O, some X, none, none, some X, some X, some O] X O).2), (4, (minimaxL 3 [none, some O, none, some X, some O, none, some X, some X, some O] X O).2), (5, (minimaxL 3 [none, some O, none, some X, none, some O, some X, some X, some O] X O).2)] O = (some 0, -1)
  rw [mmv_3396, mmv_3399, mmv_3366, mmv_3374]
  rfl

theorem mmv_3389 : minimaxL 5 [none, some O, none, some X, none, none, none, some X, some O] X O = (some 5, 0) := by
  rw [minimaxL_succ 4 [none, some O, none, some X, none, none, none, some X, some O] X O [0, 2, 4, 5, 6] rfl rfl (List.cons_ne_nil _ _)]
  show pickBest [(0, (minimaxL 4 [some X, some O, none, some X, none, none, none, some X, some O] O X).2), (2, (minimaxL 4 [none, some O, some X, some X, none, none, none, some X, some O] O X).2), (4, (minimaxL 4 [none, some O, none, some X, some X, none, none, some X, some O] O X).2), (5, (minimaxL 4 [none, some O, none, some X, none, some X, none, some X, some O] O X).2), (6, (minimaxL 4 [none, some O, none, some X, none, none, some X, some X, some O] O X).2)] X = (some 5, 0)
  rw [mmv_0444, mmv_2720, mmv_3390, mmv_3392, mmv_3395]
  rfl

theorem mmv_3355 : minimaxL 6 [none, some O, none, some X, none, none, none, some X, none] O X = (some 6, 0) := by
  rw [minimaxL_succ 5 [none, some O, none, some X, none, none, none, some X, none] O X [0, 2, 4, 5, 6, 8] rfl rfl (List.cons_ne_nil _ _)]
  show pickBest [(0, (minimaxL 5 [some O, some O, none, some X, none, none, none, some X, none] X O).2), (2, (minimaxL 5 [none, some O, some O, some X, none, none, none, some X, none] X O).2), (4, (minimaxL 5 [none, some O, none, some X, some O, none, none, some X, none] X O).2), (5, (minimaxL 5 [none, some O, none, some X, none, some O, none, some X, none] X O).2), (6, (minimaxL 5 [none, some O, none, some X, none, none, some O, some X, none] X O).2), (8, (minimaxL 5 [none, some O, none, some X, none, none, none, some X, some O] X O).2)] O = (some 6, 0)
  rw [mmv_3235, mmv_3356, mmv_3361, mmv_3371, mmv_3378, mmv_3389]
  rfl

theorem mmv_3403 : minimaxL 3 [some X, some O, some O, some X, some O, none, none, none, some X] X O = (some 6, 1) := rfl

theorem mmv_3404 : minimaxL 3 [some X, some O, some O, some X, none, some O, none, none, some X] X O = (some 6, 1) := rfl

theorem mmv_3405 : minimaxL 3 [some X, some O, some O, some X, none, none, none, some O, some X] X O = (some 6, 1) := rfl

theorem mmv_3402 : minimaxL 4 [some X, some O, some O, some X, none, none, none, none, some X] O X = (some 4, 1) := by
  rw [minimaxL_succ 3 [some X, some O, some O, some X, none, none, none, none, some X] O X [4, 5, 6, 7] rfl rfl (List.cons_ne_nil _ _)]
  show pickBest [(4, (minimaxL 3 [some X, some O, some O, some X, some O, none, none, none, some X] X O).2), (5, (minimaxL 3 [some X, some O, some O, some X, none, some O, none, none, some X] X O).2), (6, (minimaxL 3 [some X, some O, some O, some X, none, none, some O, none, some X] X O).2), (7, (minimaxL 3 [some X, some O, some O, some X, none, none, none, some O, some X] X O).2)] O = (some 4, 1)
  rw [mmv_3403, mmv_3404, mmv_0217, mmv_3405]
  rfl

theorem mmv_3406 : minimaxL 4 [none, some O, some O, some X, some X, none, none, none, some X] O X = (some 0, -1) := rfl

theorem mmv_3407 : minimaxL 4 [none, some O, some O, some X, none, some X, none, none, some X] O X = (some 0, -1) := rfl

theorem mmv_3408 : minimaxL 4 [none, some O, some O, some X, none, none, some X, none, some X] O X = (some 0, -1) := rfl

theorem mmv_3401 : minimaxL 5 [none, some O, some O, some X, none, none, none, none, some X] X O = (some 0, 1) := by
  rw [minimaxL_succ 4 [none, some O, some O, some X, none, none, none, none, some X] X O [0, 4, 5, 6, 7] rfl rfl (List.cons_ne_nil _ _)]
  show pickBest [(0, (minimaxL 4 [some X, some O, some O, some X, none, none, none, none, some X] O X).2), (4, (minimaxL 4 [none, some O, some O, some X, some X, none, none, none, some X] O X).2), (5, (minimaxL 4 [none, some O, some O, some X, none, some X, none, none, some X] O X).2), (6, (minimaxL 4 [none, some O, some O, some X, none, none, some X, none, some X] O X).2), (7, (minimaxL 4 [none, some O, some O, some X, none, none, none, some X, some X] O X).2)] X = (some 0, 1)
  rw [mmv_3402, mmv_3406, mmv_3407, mmv_3408, mmv_3360]
  rfl

theorem mmv_3410 : minimaxL 4 [none, some O, none, some X, some O, none, some X, none, some X] O X = (some 7, -1) := rfl

theorem mmv_3409 : minimaxL 5 [none, some O, none, some X, some O, none, none, none, some X] X O = (some 7, 0) := by
  rw [minimaxL_succ 4 [none, some O, none, some X, some O, none, none, none, some X] X O [0, 2, 5, 6, 7] rfl rfl (List.cons_ne_nil _ _)]
  show pickBest [(0, (minimaxL 4 [some X, some O, none, some X, some O, none, none, none, some X] O X).2), (2, (minimaxL 4 [none, some O, some X, some X, some O, none, none, none, some X] O X).2), (5, (minimaxL 4 [none, some O, none, some X, some O, some X, none, none, some X] O X).2), (6, (minimaxL 4 [none, some O, none, some X, some O, none, some X, none, some X] O X).2), (7, (minimaxL 4 [none, some O, none, some X, some O, none, none, some X, some X] O X).2)] X = (some 7, 0)
  rw [mmv_0450, mmv_2662, mmv_3345, mmv_3410, mmv_3367]
  rfl

theorem mmv_3413 : minimaxL 3 [some X, some O, none, some X, none, some O, none, some O, some X] X O = (some 6, 1) := rfl

theorem mmv_3412 : minimaxL 4 [some X, some O, none, some X, none, some O, none, none, some X] O X = (some 2, 1) := by
  rw [minimaxL_succ 3 [some X, some O, none, some X, none, some O, none, none, some X] O X [2, 4, 6, 7] rfl rfl (List.cons_ne_nil _ _)]
  show pickBest [(2, (minimaxL 3 [some X, some O, some O, some X, none, some O, none, none, some X] X O).2), (4, (minimaxL 3 [some X, some O, none, some X, some O, some O, none, none, some X] X O).2), (6, (minimaxL 3 [some X, some O, none, some X, none, some O, some O, none, some X] X O).2), (7, (minimaxL 3 [some X, some O, none, some X, none, some O, none, some O, some X] X O).2)] O = (some 2, 1)
  rw [mmv_3404, mmv_1048, mmv_0219, mmv_3413]
  rfl

theorem mmv_3415 : minimaxL 3 [none, some O, some O, some X, none, some O, some X, none, some X] X O = (some 0, 1) := rfl

theorem mmv_3416 : minimaxL 3 [none, some O, none, some X, some O, some O, some X, none, some X] X O = (some 0, 1) := rfl

theorem mmv_3417 : minimaxL 3 [none, some O, none, some X, none, some O, some X, some O, some X] X O = (some 0, 1) := rfl

theorem mmv_3414 : minimaxL 4 [none, some O, none, some X, none, some O, some X, none, some X] O X = (some 0, 1) := by
  rw [minimaxL_succ 3 [none, some O, none, some X, none, some O, some X, none, some X] O X [0, 2, 4, 7] rfl rfl (List.cons_ne_nil _ _)]
  show pickBest [(0, (minimaxL 3 [some O, some O, none, some X, none, some O, some X, none, some X] X O).2), (2, (minimaxL 3 [none, some O, some O, some X, none, some O, some X, none, some X] X O).2), (4, (minimaxL 3 [none, some O, none, some X, some O, some O, some X, none, some X] X O).2), (7, (minimaxL 3 [none, some O, none, some X, none, some O, some X, some O, some X] X O).2)] O = (some 0, 1)
  rw [mmv_3207, mmv_3415, mmv_3416, mmv_3417]
  rfl

theorem mmv_3411 : minimaxL 5 [none, some O, none, some X, none, some O, none, none, some X] X O = (some 6, 1) := by
  rw [minimaxL_succ 4 [none, some O, none, some X, none, some O, none, none, some X] X O [0, 2, 4, 6, 7] rfl rfl (List.cons_ne_nil _ _)]
  show pickBest [(0, (minimaxL 4 [some X, some O, none, some X, none, some O, none, none, some X] O X).2), (2, (minimaxL 4 [none, some O, some X, some X, none, some O, none, none, some X] O X).2), (4, (minimaxL 4 [none, some O, none, some X, some X, some O, none, none, some X] O X).2), (6, (minimaxL 4 [none, some O, none, some X, none, some O, some X, none, some X] O X).2), (7, (minimaxL 4 [none, some O, none, some X, none, some O, none, some X, some X] O X).2)] X = (some 6, 1)
  rw [mmv_3412, mmv_2682, mmv_3323, mmv_3414, mmv_3375]
  rfl

theorem mmv_3420 : minimaxL 3 [none, some O, some O, some X, some X, none, some O, none, some X] X O = (some 5, 1) := rfl

theorem mmv_3421 : minimaxL 3 [none, some O, none, some X, some X, none, some O, some O, some X] X O = (some 5, 1) := rfl

theorem mmv_3419 : minimaxL 4 [none, some O, none, some X, some X, none, some O, none, some X] O X = (some 0, 1) := by
  rw [minimaxL_succ 3 [none, some O, none, some X, some X, none, some O, none, some X] O X [0, 2, 5, 7] rfl rfl (List.cons_ne_nil _ _)]
  show pickBest [(0, (minimaxL 3 [some O, some O, none, some X, some X, none, some O, none, some X] X O).2), (2, (minimaxL 3 [none, some O, some O, some X, some X, none, some O, none, some X] X O).2), (5, (minimaxL 3 [none, some O, none, some X, some X, some O, some O, none, some X] X O).2), (7, (minimaxL 3 [none, some O, none, some X, some X, none, some O, some O, some X] X O).2)] O = (some 0, 1)
  rw [mmv_3288, mmv_3420, mmv_3325, mmv_3421]
  rfl

theorem mmv_3423 : minimaxL 3 [none, some O, some O, some X, none, some X, some O, none, some X] X O = (some 4, 1) := rfl

theorem mmv_3424 : minimaxL 3 [none, some O, none, some X, some O, some X, some O, none, some X] X O = (some 2, 1) := rfl

theorem mmv_3425 : minimaxL 3 [none, some O, none, some X, none, some X, some O, some O, some X] X O = (some 4, 1) := rfl

theorem mmv_3422 : minimaxL 4 [none, some O, none, some X, none, some X, some O, none, some X] O X = (some 0, 1) := by
  rw [minimaxL_succ 3 [none, some O, none, some X, none, some X, some O, none, some X] O X [0, 2, 4, 7] rfl rfl (List.cons_ne_nil _ _)]
  show pickBest [(0, (minimaxL 3 [some O, some O, none, some X, none, some X, some O, none, some X] X O).2), (2, (minimaxL 3 [none, some O, some O, some X, none, some X, some O, none, some X] X O).2), (4, (minimaxL 3 [none, some O, none, some X, some O, some X, some O, none, some X] X O).2), (7, (minimaxL 3 [none, some O, none, some X, none, some X, some O, some O, some X] X O).2)] O = (some 0, 1)
  rw [mmv_3292, mmv_3423, mmv_3424, mmv_3425]
  rfl

theorem mmv_3418 : minimaxL 5 [none, some O, none, some X, none, none, some O, none, some X] X O = (some 5, 1) := by
  rw [minimaxL_succ 4 [none, some O, none, some X, none, none, some O, none, some X] X O [0, 2, 4, 5, 7] rfl rfl (List.cons_ne_nil _ _)]
  show pickBest [(0, (minimaxL 4 [some X, some O, none, some X, none, none, some O, none, some X] O X).2), (2, (minimaxL 4 [none, some O, some X, some X, none, none, some O, none, some X] O X).2), (4, (minimaxL 4 [none, some O, none, some X, some X, none, some O, none, some X] O X).2), (5, (minimaxL 4 [none, some O, none, some X, none, some X, some O, none, some X] O X).2), (7, (minimaxL 4 [none, some O, none, some X, none, none, some O, some X, some X] O X).2)] X = (some 5, 1)
  rw [mmv_0216, mmv_2702, mmv_3419, mmv_3422, mmv_3385]
  rfl

theorem mmv_3427 : minimaxL 4 [some X, some O, none, some X, none, none, none, some O, some X] O X = (some 4, -1) := rfl

theorem mmv_3429 : minimaxL 3 [none, some O, some O, some X, some X, none, none, some O, some X] X O = (some 5, 1) := rfl

theorem mmv_3428 : minimaxL 4 [none, some O, none, some X, some X, none, none, some O, some X] O X = (some 0, 1) := by
  rw [minimaxL_succ 3 [none, some O, none, some X, some X, none, none, some O, some X] O X [0, 2, 5, 6] rfl rfl (List.cons_ne_nil _ _)]
  show pickBest [(0, (minimaxL 3 [some O, some O, none, some X, some X, none, none, some O, some X] X O).2), (2, (minimaxL 3 [none, some O, some O, some X, some X, none, none, some O, some X] X O).2), (5, (minimaxL 3 [none, some O, none, some X, some X, some O, none, some O, some X] X O).2), (6, (minimaxL 3 [none, some O, none, some X, some X, none, some O, some O, some X] X O).2)] O = (some 0, 1)
  rw [mmv_3297, mmv_3429, mmv_3326, mmv_3421]
  rfl

theorem mmv_3430 : minimaxL 4 [none, some O, none, some X, none, some X, none, some O, some X] O X = (some 4, -1) := rfl

theorem mmv_3431 : minimaxL 4 [none, some O, none, some X, none, none, some X, some O, some X] O X = (some 4, -1) := rfl

theorem mmv_3426 : minimaxL 5 [none, some O, none, some X, none, none, none, some O, some X] X O = (some 4, 1) := by
  rw [minimaxL_succ 4 [none, some O, none, some X, none, none, none, some O, some X] X O [0, 2, 4, 5, 6] rfl rfl (List.cons_ne_nil _ _)]
  show pickBest [(0, (minimaxL 4 [some X, some O, none, some X, none, none, none, some O, some X] O X).2), (2, (minimaxL 4 [none, some O, some X, some X, none, none, none, some O, some X] O X).2), (4, (minimaxL 4 [none, some O, none, some X, some X, none, none, some O, some X] O X).2), (5, (minimaxL 4 [none, some O, none, some X, none, some X, none, some O, some X] O X).2), (6, (minimaxL 4 [none, some O, none, some X, none, none, some X, some O, some X] O X).2)] X = (some 4, 1)
  rw [mmv_3427, mmv_2710, mmv_3428, mmv_3430, mmv_3431]
  rfl

theorem mmv_3400 : minimaxL 6 [none, some O, none, some X, none, none, none, none, some X] O X = (some 4, 0) := by
  rw [minimaxL_succ 5 [none, some O, none, some X, none, none, none, none, some X] O X [0, 2, 4, 5, 6, 7] rfl rfl (List.cons_ne_nil _ _)]
  show pickBest [(0, (minimaxL 5 [some O, some O, none, some X, none, none, none, none, some X] X O).2), (2, (minimaxL 5 [none, some O, some O, some X, none, none, none, none, some X] X O).2), (4, (minimaxL 5 [none, some O, none, some X, some O, none, none, none, some X] X O).2), (5, (minimaxL 5 [none, some O, none, some X, none, some O, none, none, some X] X O).2), (6, (minimaxL 5 [none, some O, none, some X, none, none, some O, none, some X] X O).2), (7, (minimaxL 5 [none, some O, none, some X, none, none, none, some O, some X] X O).2)] O = (some 4, 0)
  rw [mmv_3278, mmv_3401, mmv_3409, mmv_3411, mmv_3418, mmv_3426]
  rfl

theorem mmv_3302 : minimaxL 7 [none, some O, none, some X, none, none, none, none, none] X O = (some 4, 1) := by
  rw [minimaxL_succ 6 [none, some O, none, some X, none, none, none, none, none] X O [0, 2, 4, 5, 6, 7, 8] rfl rfl (List.cons_ne_nil _ _)]
  show pickBest [(0, (minimaxL 6 [some X, some O, none, some X, none, none, none, none, none] O X).2), (2, (minimaxL 6 [none, some O, some X, some X, none, none, none, none, none] O X).2), (4, (minimaxL 6 [none, some O, none, some X, some X, none, none, none, none] O X).2), (5, (minimaxL 6 [none, some O, none, some X, none, some X, none, none, none] O X).2), (6, (minimaxL 6 [none, some O, none, some X, none, none, some X, none, none] O X).2), (7, (minimaxL 6 [none, some O, none, some X, none, none, none, some X, none] O X).2), (8, (minimaxL 6 [none, some O, none, some X, none, none, none, none, some X] O X).2)] X = (some 4, 1)
  rw [mmv_0179, mmv_2645, mmv_3303, mmv_3330, mmv_3349, mmv_3355, mmv_3400]
  rfl

theorem mmv_3435 : minimaxL 4 [some X, none, some O, some X, some X, some O, none, none, none] O X = (some 8, -1) := rfl

theorem mmv_3436 : minimaxL 4 [none, none, some O, some X, some X, some O, some X, none, none] O X = (some 8, -1) := rfl

theorem mmv_3437 : minimaxL 4 [none, none, some O, some X, some X, some O, none, some X, none] O X = (some 8, -1) := rfl

theorem mmv_3439 : minimaxL 3 [none, none, some O, some X, some X, some O, some O, none, some X] X O = (some 0, 1) := rfl

theorem mmv_3440 : minimaxL 3 [none, none, some O, some X, some X, some O, none, some O, some X] X O = (some 0, 1) := rfl

theorem mmv_3438 : minimaxL 4 [none, none, some O, some X, some X, some O, none, none, some X] O X = (some 0, 0) := by
  rw [minimaxL_succ 3 [none, none, some O, some X, some X, some O, none, none, some X] O X [0, 1, 6, 7] rfl rfl (List.cons_ne_nil _ _)]
  show pickBest [(0, (minimaxL 3 [some O, none, some O, some X, some X, some O, none, none, some X] X O).2), (1, (minimaxL 3 [none, some O, some O, some X, some X, some O, none, none, some X] X O).2), (6, (minimaxL 3 [none, none, some O, some X, some X, some O, some O, none, some X] X O).2), (7, (minimaxL 3 [none, none, some O, some X, some X, some O, none, some O, some X] X O).2)] O = (some 0, 0)
  rw [mmv_3151, mmv_3324, mmv_3439, mmv_3440]
  rfl

theorem mmv_3434 : minimaxL 5 [none, none, some O, some X, some X, some O, none, none, none] X O = (some 8, 0) := by
  rw [minimaxL_succ 4 [none, none, some O, some X, some X, some O, none, none, none] X O [0, 1, 6, 7, 8] rfl rfl (List.cons_ne_nil _ _)]
  show pickBest [(0, (minimaxL 4 [some X, none, some O, some X, some X, some O, none, none, none] O X).2), (1, (minimaxL 4 [none, some X, some O, some X, some X, some O, none, none, none] O X).2), (6, (minimaxL 4 [none, none, some O, some X, some X, some O, some X, none, none] O X).2), (7, (minimaxL 4 [none, none, some O, some X, some X, some O, none, some X, none] O X).2), (8, (minimaxL 4 [none, none, some O, some X, some X, some O, none, none, some X] O X).2)] X = (some 8, 0)
  rw [mmv_3435, mmv_1744, mmv_3436, mmv_3437, mmv_3438]
  rfl

theorem mmv_3441 : minimaxL 5 [none, none, some O, some X, some X, none, some O, none, none] X O = (some 5, 1) := rfl

theorem mmv_3442 : minimaxL 5 [none, none, some O, some X, some X, none, none, some O, none] X O = (some 5, 1) := rfl

theorem mmv_3443 : minimaxL 5 [none, none, some O, some X, some X, none, none, none, some O] X O = (some 5, 1) := rfl

theorem mmv_3433 : minimaxL 6 [none, none, some O, some X, some X, none, none, none, none] O X = (some 5, 0) := by
  rw [minimaxL_succ 5 [none, none, some O, some X, some X, none, none, none, none] O X [0, 1, 5, 6, 7, 8] rfl rfl (List.cons_ne_nil _ _)]
  show pickBest [(0, (minimaxL 5 [some O, none, some O, some X, some X, none, none, none, none] X O).2), (1, (minimaxL 5 [none, some O, some O, some X, some X, none, none, none, none] X O).2), (5, (minimaxL 5 [none, none, some O, some X, some X, some O, none, none, none] X O).2), (6, (minimaxL 5 [none, none, some O, some X, some X, none, some O, none, none] X O).2), (7, (minimaxL 5 [none, none, some O, some X, some X, none, none, some O, none] X O).2), (8, (minimaxL 5 [none, none, some O, some X, some X, none, none, none, some O] X O).2)] O = (some 5, 0)
  rw [mmv_3132, mmv_3304, mmv_3434, mmv_3441, mmv_3442, mmv_3443]
  rfl

theorem mmv_3448 : minimaxL 2 [some O, none, some O, some X, some O, some X, some X, some X, none] O X = (some 1, -1) := rfl

theorem mmv_3447 : minimaxL 3 [some O, none, some O, some X, some O, some X, some X, none, none] X O = (some 8, -1) := by
  rw [minimaxL_succ 2 [some O, none, some O, some X, some O, some X, some X, none, none] X O [1, 7, 8] rfl rfl (List.cons_ne_nil _ _)]
  show pickBest [(1, (minimaxL 2 [some O, some X, some O, some X, some O, some X, some X, none, none] O X).2), (7, (minimaxL 2 [some O, none, some O, some X, some O, some X, some X, some X, none] O X).2), (8, (minimaxL 2 [some O, none, some O, some X, some O, some X, some X, none, some X] O X).2)] X = (some 8, -1)
  rw [mmv_1389, mmv_3448, mmv_3173]
  rfl

theorem mmv_3449 : minimaxL 3 [none, some O, some O, some X, some O, some X, some X, none, none] X O = (some 0, 1) := rfl

theorem mmv_3450 : minimaxL 3 [none, none, some O, some X, some O, some X, some X, some O, none] X O = (some 0, 1) := rfl

theorem mmv_3451 : minimaxL 3 [none, none, some O, some X, some O, some X, some X, none, some O] X O = (some 0, 1) := rfl

theorem mmv_3446 : minimaxL 4 [none, none, some O, some X, some O, some X, some X, none, none] O X = (some 0, -1) := by
  rw [minimaxL_succ 3 [none, none, some O, some X, some O, some X, some X, none, none] O X [0, 1, 7, 8] rfl rfl (List.cons_ne_nil _ _)]
  show pickBest [(0, (minimaxL 3 [some O, none, some O, some X, some O, some X, some X, none, none] X O).2), (1, (minimaxL 3 [none, some O, some O, some X, some O, some X, some X, none, none] X O).2), (7, (minimaxL 3 [none, none, some O, some X, some O, some X, some X, some O, none] X O).2), (8, (minimaxL 3 [none, none, some O, some X, some O, some X, some X, none, some O] X O).2)] O = (some 0, -1)
  rw [mmv_3447, mmv_3449, mmv_3450, mmv_3451]
  rfl

theorem mmv_3452 : minimaxL 4 [none, none, some O, some X, some O, some X, none, some X, none] O X = (some 6, -1) := rfl

theorem mmv_3453 : minimaxL 4 [none, none, some O, some X, some O, some X, none, none, some X] O X = (some 6, -1) := rfl

theorem mmv_3445 : minimaxL 5 [none, none, some O, some X, some O, some X, none, none, none] X O = (some 8, -1) := by
  rw [minimaxL_succ 4 [none, none, some O, some X, some O, some X, none, none, none] X O [0, 1, 6, 7, 8] rfl rfl (List.cons_ne_nil _ _)]
  show pickBest [(0, (minimaxL 4 [some X, none, some O, some X, some O, some X, none, none, none] O X).2), (1, (minimaxL 4 [none, some X, some O, some X, some O, some X, none, none, none] O X).2), (6, (minimaxL 4 [none, none, some O, some X, some O, some X, some X, none, none] O X).2), (7, (minimaxL 4 [none, none, some O, some X, some O, some X, none, some X, none] O X).2), (8, (minimaxL 4 [none, none, some O, some X, some O, some X, none, none, some X] O X).2)] X = (some 8, -1)
  rw [mmv_0660, mmv_1736, mmv_3446, mmv_3452, mmv_3453]
  rfl

theorem mmv_3454 : minimaxL 5 [none, none, some O, some X, none, some X, some O, none, none] X O = (some 4, 1) := rfl

theorem mmv_3455 : minimaxL 5 [none, none, some O, some X, none, some X, none, some O, none] X O = (some 4, 1) := rfl

theorem mmv_3456 : minimaxL 5 [none, none, some O, some X, none, some X, none, none, some O] X O = (some 4, 1) := rfl

theorem mmv_3444 : minimaxL 6 [none, none, some O, some X, none, some X, none, none, none] O X = (some 4, -1) := by
  rw [minimaxL_succ 5 [none, none, some O, some X, none, some X, none, none, none] O X [0, 1, 4, 6, 7, 8] rfl rfl (List.cons_ne_nil _ _)]
  show pickBest [(0, (minimaxL 5 [some O, none, some O, some X, none, some X, none, none, none] X O).2), (1, (minimaxL 5 [none, some O, some O, some X, none, some X, none, none, none] X O).2), (4, (minimaxL 5 [none, none, some O, some X, some O, some X, none, none, none] X O).2), (6, (minimaxL 5 [none, none, some O, some X, none, some X, some O, none, none] X O).2), (7, (minimaxL 5 [none, none, some O, some X, none, some X, none, some O, none] X O).2), (8, (minimaxL 5 [none, none, some O, some X, none, some X, none, none, some O] X O).2)] O = (some 4, -1)
  rw [mmv_3166, mmv_3331, mmv_3445, mmv_3454, mmv_3455, mmv_3456]
  rfl

theorem mmv_3458 : minimaxL 5 [none, none, some O, some X, some O, none, some X, none, none] X O = (some 0, 1) := rfl

theorem mmv_3459 : minimaxL 5 [none, none, some O, some X, none, some O, some X, none, none] X O = (some 0, 1) := rfl

theorem mmv_3460 : minimaxL 5 [none, none, some O, some X, none, none, some X, some O, none] X O = (some 0, 1) := rfl

theorem mmv_3461 : minimaxL 5 [none, none, some O, some X, none, none, some X, none, some O] X O = (some 0, 1) := rfl

theorem mmv_3457 : minimaxL 6 [none, none, some O, some X, none, none, some X, none, none] O X = (some 0, -1) := by
  rw [minimaxL_succ 5 [none, none, some O, some X, none, none, some X, none, none] O X [0, 1, 4, 5, 7, 8] rfl rfl (List.cons_ne_nil _ _)]
  show pickBest [(0, (minimaxL 5 [some O, none, some O, some X, none, none, some X, none, none] X O).2), (1, (minimaxL 5 [none, some O, some O, some X, none, none, some X, none, none] X O).2), (4, (minimaxL 5 [none, none, some O, some X, some O, none, some X, none, none] X O).2), (5, (minimaxL 5 [none, none, some O, some X, none, some O, some X, none, none] X O).2), (7, (minimaxL 5 [none, none, some O, some X, none, none, some X, some O, none] X O).2), (8, (minimaxL 5 [none, none, some O, some X, none, none, some X, none, some O] X O).2)] O = (some 0, -1)
  rw [mmv_3186, mmv_3350, mmv_3458, mmv_3459, mmv_3460, mmv_3461]
  rfl

theorem mmv_3465 : minimaxL 3 [some O, none, some O, some X, some O, none, some X, some X, none] X O = (some 8, 1) := rfl

theorem mmv_3466 : minimaxL 3 [none, none, some O, some X, some O, some O, some X, some X, none] X O = (some 0, 1) := rfl

theorem mmv_3467 : minimaxL 3 [none, none, some O, some X, some O, none, some X, some X, some O] X O = (some 0, 1) := rfl

theorem mmv_3464 : minimaxL 4 [none, none, some O, some X, some O, none, some X, some X, none] O X = (some 0, 1) := by
  rw [minimaxL_succ 3 [none, none, some O, some X, some O, none, some X, some X, none] O X [0, 1, 5, 8] rfl rfl (List.cons_ne_nil _ _)]
  show pickBest [(0, (minimaxL 3 [some O, none, some O, some X, some O, none, some X, some X, none] X O).2), (1, (minimaxL 3 [none, some O, some O, some X, some O, none, some X, some X, none] X O).2), (5, (minimaxL 3 [none, none, some O, some X, some O, some O, some X, some X, none] X O).2), (8, (minimaxL 3 [none, none, some O, some X, some O, none, some X, some X, some O] X O).2)] O = (some 0, 1)
  rw [mmv_3465, mmv_3364, mmv_3466, mmv_3467]
  rfl

theorem mmv_3468 : minimaxL 4 [none, none, some O, some X, some O, none, none, some X, some X] O X = (some 6, -1) := rfl

theorem mmv_3463 : minimaxL 5 [none, none, some O, some X, some O, none, none, some X, none] X O = (some 6, 1) := by
  rw [minimaxL_succ 4 [none, none, some O, some X, some O, none, none, some X, none] X O [0, 1, 5, 6, 8] rfl rfl (List.cons_ne_nil _ _)]
  show pickBest [(0, (minimaxL 4 [some X, none, some O, some X, some O, none, none, some X, none] O X).2), (1, (minimaxL 4 [none, some X, some O, some X, some O, none, none, some X, none] O X).2), (5, (minimaxL 4 [none, none, some O, some X, some O, some X, none, some X, none] O X).2), (6, (minimaxL 4 [none, none, some O, some X, some O, none, some X, some X, none] O X).2), (8, (minimaxL 4 [none, none, some O, some X, some O, none, none, some X, some X] O X).2)] X = (some 6, 1)
  rw [mmv_0726, mmv_1741, mmv_3452, mmv_3464, mmv_3468]
  rfl

theorem mmv_3470 : minimaxL 4 [none, none, some O, some X, none, some O, some X, some X, none] O X = (some 8, -1) := rfl

theorem mmv_3472 : minimaxL 3 [none, none, some O, some X, some O, some O, none, some X, some X] X O = (some 6, 1) := rfl

theorem mmv_3474 : minimaxL 2 [none, none, some O, some X, some X, some O, some O, some X, some X] O X = (some 0, 1) := by
  rw [minimaxL_succ 1 [none, none, some O, some X, some X, some O, some O, some X, some X] O X [0, 1] rfl rfl (List.cons_ne_nil _ _)]
  show pickBest [(0, (minimaxL 1 [some O, none, some O, some X, some X, some O, some O, some X, some X] X O).2), (1, (minimaxL 1 [none, some O, some O, some X, some X, some O, some O, some X, some X] X O).2)] O = (some 0, 1)
  rw [mmv_3156, mmv_3320]
  rfl

theorem mmv_3473 : minimaxL 3 [none, none, some O, some X, none, some O, some O, some X, some X] X O = (some 4, 1) := by
  rw [minimaxL_succ 2 [none, none, some O, some X, none, some O, some O, some X, some X] X O [0, 1, 4] rfl rfl (List.cons_ne_nil _ _)]
  show pickBest [(0, (minimaxL 2 [some X, none, some O, some X, none, some O, some O, some X, some X] O X).2), (1, (minimaxL 2 [none, some X, some O, some X, none, some O, some O, some X, some X] O X).2), (4, (minimaxL 2 [none, none, some O, some X, some X, some O, some O, some X, some X] O X).2)] X = (some 4, 1)
  rw [mmv_1101, mmv_1755, mmv_3474]
  rfl

theorem mmv_3471 : minimaxL 4 [none, none, some O, some X, none, some O, none, some X, some X] O X = (some 0, 1) := by
  rw [minimaxL_succ 3 [none, none, some O, some X, none, some O, none, some X, some X] O X [0, 1, 4, 6] rfl rfl (List.cons_ne_nil _ _)]
  show pickBest [(0, (minimaxL 3 [some O, none, some O, some X, none, some O, none, some X, some X] X O).2), (1, (minimaxL 3 [none, some O, some O, some X, none, some O, none, some X, some X] X O).2), (4, (minimaxL 3 [none, none, some O, some X, some O, some O, none, some X, some X] X O).2), (6, (minimaxL 3 [none, none, some O, some X, none, some O, some O, some X, some X] X O).2)] O = (some 0, 1)
  rw [mmv_3253, mmv_3376, mmv_3472, mmv_3473]
  rfl

theorem mmv_3469 : minimaxL 5 [none, none, some O, some X, none, some O, none, some X, none] X O = (some 8, 1) := by
  rw [minimaxL_succ 4 [none, none, some O, some X, none, some O, none, some X, none] X O [0, 1, 4, 6, 8] rfl rfl (List.cons_ne_nil _ _)]
  show pickBest [(0, (minimaxL 4 [some X, none, some O, some X, none, some O, none, some X, none] O X).2), (1, (minimaxL 4 [none, some X, some O, some X, none, some O, none, some X, none] O X).2), (4, (minimaxL 4 [none, none, some O, some X, some X, some O, none, some X, none] O X).2), (6, (minimaxL 4 [none, none, some O, some X, none, some O, some X, some X, none] O X).2), (8, (minimaxL 4 [none, none, some O, some X, none, some O, none, some X, some X] O X).2)] X = (some 8, 1)
  rw [mmv_0732, mmv_1746, mmv_3437, mmv_3470, mmv_3471]
  rfl

theorem mmv_3477 : minimaxL 3 [none, none, some O, some X, some X, some O, some O, some X, none] X O = (some 1, 1) := rfl

theorem mmv_3478 : minimaxL 3 [none, none, some O, some X, some X, none, some O, some X, some O] X O = (some 5, 1) := rfl

theorem mmv_3476 : minimaxL 4 [none, none, some O, some X, some X, none, some O, some X, none] O X = (some 0, 1) := by
  rw [minimaxL_succ 3 [none, none, some O, some X, some X, none, some O, some X, none] O X [0, 1, 5, 8] rfl rfl (List.cons_ne_nil _ _)]
  show pickBest [(0, (minimaxL 3 [some O, none, some O, some X, some X, none, some O, some X, none] X O).2), (1, (minimaxL 3 [none, some O, some O, some X, some X, none, some O, some X, none] X O).2), (5, (minimaxL 3 [none, none, some O, some X, some X, some O, some O, some X, none] X O).2), (8, (minimaxL 3 [none, none, some O, some X, some X, none, some O, some X, some O] X O).2)] O = (some 0, 1)
  rw [mmv_3258, mmv_3380, mmv_3477, mmv_3478]
  rfl

theorem mmv_3479 : minimaxL 4 [none, none, some O, some X, none, some X, some O, some X, none] O X = (some 4, -1) := rfl

theorem mmv_3480 : minimaxL 4 [none, none, some O, some X, none, none, some O, some X, some X] O X = (some 4, -1) := rfl

theorem mmv_3475 : minimaxL 5 [none, none, some O, some X, none, none, some O, some X, none] X O = (some 4, 1) := by
  rw [minimaxL_succ 4 [none, none, some O, some X, none, none, some O, some X, none] X O [0, 1, 4, 5, 8] rfl rfl (List.cons_ne_nil _ _)]
  show pickBest [(0, (minimaxL 4 [some X, none, some O, some X, none, none, some O, some X, none] O X).2), (1, (minimaxL 4 [none, some X, some O, some X, none, none, some O, some X, none] O X).2), (4, (minimaxL 4 [none, none, some O, some X, some X, none, some O, some X, none] O X).2), (5, (minimaxL 4 [none, none, some O, some X, none, some X, some O, some X, none] O X).2), (8, (minimaxL 4 [none, none, some O, some X, none, none, some O, some X, some X] O X).2)] X = (some 4, 1)
  rw [mmv_0611, mmv_1768, mmv_3476, mmv_3479, mmv_3480]
  rfl

theorem mmv_3482 : minimaxL 4 [none, none, some O, some X, some X, none, none, some X, some O] O X = (some 5, -1) := rfl

theorem mmv_3484 : minimaxL 3 [some O, none, some O, some X, none, some X, none, some X, some O] X O = (some 4, 1) := rfl

theorem mmv_3486 : minimaxL 2 [none, none, some O, some X, some O, some X, some X, some X, some O] O X = (some 0, -1) := rfl

theorem mmv_3485 : minimaxL 3 [none, none, some O, some X, some O, some X, none, some X, some O] X O = (some 6, -1) := by
  rw [minimaxL_succ 2 [none, none, some O, some X, some O, some X, none, some X, some O] X O [0, 1, 6] rfl rfl (List.cons_ne_nil _ _)]
  show pickBest [(0, (minimaxL 2 [some X, none, some O, some X, some O, some X, none, some X, some O] O X).2), (1, (minimaxL 2 [none, some X, some O, some X, some O, some X, none, some X, some O] O X).2), (6, (minimaxL 2 [none, none, some O, some X, some O, some X, some X, some X, some O] O X).2)] X = (some 6, -1)
  rw [mmv_0691, mmv_1797, mmv_3486]
  rfl

theorem mmv_3487 : minimaxL 3 [none, none, some O, some X, none, some X, some O, some X, some O] X O = (some 4, 1) := rfl

theorem mmv_3483 : minimaxL 4 [none, none, some O, some X, none, some X, none, some X, some O] O X = (some 4, -1) := by
  rw [minimaxL_succ 3 [none, none, some O, some X, none, some X, none, some X, some O] O X [0, 1, 4, 6] rfl rfl (List.cons_ne_nil _ _)]
  show pickBest [(0, (minimaxL 3 [some O, none, some O, some X, none, some X, none, some X, some O] X O).2), (1, (minimaxL 3 [none, some O, some O, some X, none, some X, none, some X, some O] X O).2), (4, (minimaxL 3 [none, none, some O, some X, some O, some X, none, some X, some O] X O).2), (6, (minimaxL 3 [none, none, some O, some X, none, some X, some O, some X, some O] X O).2)] O = (some 4, -1)
  rw [mmv_3484, mmv_3394, mmv_3485, mmv_3487]
  rfl

theorem mmv_3488 : minimaxL 4 [none, none, some O, some X, none, none, some X, some X, some O] O X = (some 5, -1) := rfl

theorem mmv_3481 : minimaxL 5 [none, none, some O, some X, none, none, none, some X, some O] X O = (some 6, -1) := by
  rw [minimaxL_succ 4 [none, none, some O, some X, none, none, none, some X, some O] X O [0, 1, 4, 5, 6] rfl rfl (List.cons_ne_nil _ _)]
  show pickBest [(0, (minimaxL 4 [some X, none, some O, some X, none, none, none, some X, some O] O X).2), (1, (minimaxL 4 [none, some X, some O, some X, none, none, none, some X, some O] O X).2), (4, (minimaxL 4 [none, none, some O, some X, some X, none, none, some X, some O] O X).2), (5, (minimaxL 4 [none, none, some O, some X, none, some X, none, some X, some O] O X).2), (6, (minimaxL 4 [none, none, some O, some X, none, none, some X, some X, some O] O X).2)] X = (some 6, -1)
  rw [mmv_0744, mmv_1800, mmv_3482, mmv_3483, mmv_3488]
  rfl

theorem mmv_3462 : minimaxL 6 [none, none, some O, some X, none, none, none, some X, none] O X = (some 0, -1) := by
  rw [minimaxL_succ 5 [none, none, some O, some X, none, none, none, some X, none] O X [0, 1, 4, 5, 6, 8] rfl rfl (List.cons_ne_nil _ _)]
  show pickBest [(0, (minimaxL 5 [some O, none, some O, some X, none, none, none, some X, none] X O).2), (1, (minimaxL 5 [none, some O, some O, some X, none, none, none, some X, none] X O).2), (4, (minimaxL 5 [none, none, some O, some X, some O, none, none, some X, none] X O).2), (5, (minimaxL 5 [none, none, some O, some X, none, some O, none, some X, none] X O).2), (6, (minimaxL 5 [none, none, some O, some X, none, none, some O, some X, none] X O).2), (8, (minimaxL 5 [none, none, some O, some X, none, none, none, some X, some O] X O).2)] O = (some 0, -1)
  rw [mmv_3239, mmv_3356, mmv_3463, mmv_3469, mmv_3475, mmv_3481]
  rfl

theorem mmv_3492 : minimaxL 3 [none, some O, some O, some X, some O, none, some X, none, some X] X O = (some 0, 1) := rfl

theorem mmv_3493 : minimaxL 3 [none, none, some O, some X, some O, some O, some X, none, some X] X O = (some 0, 1) := rfl

theorem mmv_3494 : minimaxL 3 [none, none, some O, some X, some O, none, some X, some O, some X] X O = (some 0, 1) := rfl

theorem mmv_3491 : minimaxL 4 [none, none, some O, some X, some O, none, some X, none, some X] O X = (some 0, 1) := by
  rw [minimaxL_succ 3 [none, none, some O, some X, some O, none, some X, none, some X] O X [0, 1, 5, 7] rfl rfl (List.cons_ne_nil _ _)]
  show pickBest [(0, (minimaxL 3 [some O, none, some O, some X, some O, none, some X, none, some X] X O).2), (1, (minimaxL 3 [none, some O, some O, some X, some O, none, some X, none, some X] X O).2), (5, (minimaxL 3 [none, none, some O, some X, some O, some O, some X, none, some X] X O).2), (7, (minimaxL 3 [none, none, some O, some X, some O, none, some X, some O, some X] X O).2)] O = (some 0, 1)
  rw [mmv_3195, mmv_3492, mmv_3493, mmv_3494]
  rfl

theorem mmv_3490 : minimaxL 5 [none, none, some O, some X, some O, none, none, none, some X] X O = (some 6, 1) := by
  rw [minimaxL_succ 4 [none, none, some O, some X, some O, none, none, none, some X] X O [0, 1, 5, 6, 7] rfl rfl (List.cons_ne_nil _ _)]
  show pickBest [(0, (minimaxL 4 [some X, none, some O, some X, some O, none, none, none, some X] O X).2), (1, (minimaxL 4 [none, some X, some O, some X, some O, none, none, none, some X] O X).2), (5, (minimaxL 4 [none, none, some O, some X, some O, some X, none, none, some X] O X).2), (6, (minimaxL 4 [none, none, some O, some X, some O, none, some X, none, some X] O X).2), (7, (minimaxL 4 [none, none, some O, some X, some O, none, none, some X, some X] O X).2)] X = (some 6, 1)
  rw [mmv_0749, mmv_1742, mmv_3453, mmv_3491, mmv_3468]
  rfl

theorem mmv_3497 : minimaxL 3 [some X, none, some O, some X, none, some O, none, some O, some X] X O = (some 6, 1) := rfl

theorem mmv_3496 : minimaxL 4 [some X, none, some O, some X, none, some O, none, none, some X] O X = (some 1, 1) := by
  rw [minimaxL_succ 3 [some X, none, some O, some X, none, some O, none, none, some X] O X [1, 4, 6, 7] rfl rfl (List.cons_ne_nil _ _)]
  show pickBest [(1, (minimaxL 3 [some X, some O, some O, some X, none, some O, none, none, some X] X O).2), (4, (minimaxL 3 [some X, none, some O, some X, some O, some O, none, none, some X] X O).2), (6, (minimaxL 3 [some X, none, some O, some X, none, some O, some O, none, some X] X O).2), (7, (minimaxL 3 [some X, none, some O, some X, none, some O, none, some O, some X] X O).2)] O = (some 1, 1)
  rw [mmv_3404, mmv_1049, mmv_1106, mmv_3497]
  rfl

theorem mmv_3499 : minimaxL 3 [none, none, some O, some X, none, some O, some X, some O, some X] X O = (some 0, 1) := rfl

theorem mmv_3498 : minimaxL 4 [none, none, some O, some X, none, some O, some X, none, some X] O X = (some 0, 1) := by
  rw [minimaxL_succ 3 [none, none, some O, some X, none, some O, some X, none, some X] O X [0, 1, 4, 7] rfl rfl (List.cons_ne_nil _ _)]
  show pickBest [(0, (minimaxL 3 [some O, none, some O, some X, none, some O, some X, none, some X] X O).2), (1, (minimaxL 3 [none, some O, some O, some X, none, some O, some X, none, some X] X O).2), (4, (minimaxL 3 [none, none, some O, some X, some O, some O, some X, none, some X] X O).2), (7, (minimaxL 3 [none, none, some O, some X, none, some O, some X, some O, some X] X O).2)] O = (some 0, 1)
  rw [mmv_3208, mmv_3415, mmv_3493, mmv_3499]
  rfl

theorem mmv_3495 : minimaxL 5 [none, none, some O, some X, none, some O, none, none, some X] X O = (some 7, 1) := by
  rw [minimaxL_succ 4 [none, none, some O, some X, none, some O, none, none, some X] X O [0, 1, 4, 6, 7] rfl rfl (List.cons_ne_nil _ _)]
  show pickBest [(0, (minimaxL 4 [some X, none, some O, some X, none, some O, none, none, some X] O X).2), (1, (minimaxL 4 [none, some X, some O, some X, none, some O, none, none, some X] O X).2), (4, (minimaxL 4 [none, none, some O, some X, some X, some O, none, none, some X] O X).2), (6, (minimaxL 4 [none, none, some O, some X, none, some O, some X, none, some X] O X).2), (7, (minimaxL 4 [none, none, some O, some X, none, some O, none, some X, some X] O X).2)] X = (some 7, 1)
  rw [mmv_3496, mmv_1747, mmv_3438, mmv_3498, mmv_3471]
  rfl

theorem mmv_3502 : minimaxL 3 [none, none, some O, some X, some X, none, some O, some O, some X] X O = (some 5, 1) := rfl

theorem mmv_3501 : minimaxL 4 [none, none, some O, some X, some X, none, some O, none, some X] O X = (some 0, 1) := by
  rw [minimaxL_succ 3 [none, none, some O, some X, some X, none, some O, none, some X] O X [0, 1, 5, 7] rfl rfl (List.cons_ne_nil _ _)]
  show pickBest [(0, (minimaxL 3 [some O, none, some O, some X, some X, none, some O, none, some X] X O).2), (1, (minimaxL 3 [none, some O, some O, some X, some X, none, some O, none, some X] X O).2), (5, (minimaxL 3 [none, none, some O, some X, some X, some O, some O, none, some X] X O).2), (7, (minimaxL 3 [none, none, some O, some X, some X, none, some O, some O, some X] X O).2)] O = (some 0, 1)
  rw [mmv_3289, mmv_3420, mmv_3439, mmv_3502]
  rfl

theorem mmv_3503 : minimaxL 4 [none, none, some O, some X, none, some X, some O, none, some X] O X = (some 4, -1) := rfl

theorem mmv_3500 : minimaxL 5 [none, none, some O, some X, none, none, some O, none, some X] X O = (some 4, 1) := by
  rw [minimaxL_succ 4 [none, none, some O, some X, none, none, some O, none, some X] X O [0, 1, 4, 5, 7] rfl rfl (List.cons_ne_nil _ _)]
  show pickBest [(0, (minimaxL 4 [some X, none, some O, some X, none, none, some O, none, some X] O X).2), (1, (minimaxL 4 [none, some X, some O, some X, none, none, some O, none, some X] O X).2), (4, (minimaxL 4 [none, none, some O, some X, some X, none, some O, none, some X] O X).2), (5, (minimaxL 4 [none, none, some O, some X, none, some X, some O, none, some X] O X).2), (7, (minimaxL 4 [none, none, some O, some X, none, none, some O, some X, some X] O X).2)] X = (some 4, 1)
  rw [mmv_0612, mmv_1769, mmv_3501, mmv_3503, mmv_3480]
  rfl

theorem mmv_3506 : minimaxL 3 [some X, none, some O, some X, some O, none, none, some O, some X] X O = (some 6, 1) := rfl

theorem mmv_3505 : minimaxL 4 [some X, none, some O, some X, none, none, none, some O, some X] O X = (some 1, 1) := by
  rw [minimaxL_succ 3 [some X, none, some O, some X, none, none, none, some O, some X] O X [1, 4, 5, 6] rfl rfl (List.cons_ne_nil _ _)]
  show pickBest [(1, (minimaxL 3 [some X, some O, some O, some X, none, none, none, some O, some X] X O).2), (4, (minimaxL 3 [some X, none, some O, some X, some O, none, none, some O, some X] X O).2), (5, (minimaxL 3 [some X, none, some O, some X, none, some O, none, some O, some X] X O).2), (6, (minimaxL 3 [some X, none, some O, some X, none, none, some O, some O, some X] X O).2)] O = (some 1, 1)
  rw [mmv_3405, mmv_3506, mmv_3497, mmv_1160]
  rfl

theorem mmv_3507 : minimaxL 4 [none, none, some O, some X, some X, none, none, some O, some X] O X = (some 0, 1) := by
  rw [minimaxL_succ 3 [none, none, some O, some X, some X, none, none, some O, some X] O X [0, 1, 5, 6] rfl rfl (List.cons_ne_nil _ _)]
  show pickBest [(0, (minimaxL 3 [some O, none, some O, some X, some X, none, none, some O, some X] X O).2), (1, (minimaxL 3 [none, some O, some O, some X, some X, none, none, some O, some X] X O).2), (5, (minimaxL 3 [none, none, some O, some X, some X, some O, none, some O, some X] X O).2), (6, (minimaxL 3 [none, none, some O, some X, some X, none, some O, some O, some X] X O).2)] O = (some 0, 1)
  rw [mmv_3298, mmv_3429, mmv_3440, mmv_3502]
  rfl

theorem mmv_3509 : minimaxL 3 [none, some O, some O, some X, none, some X, none, some O, some X] X O = (some 4, 1) := rfl

theorem mmv_3511 : minimaxL 2 [none, none, some O, some X, some O, some X, some X, some O, some X] O X = (some 1, -1) := rfl

theorem mmv_3510 : minimaxL 3 [none, none, some O, some X, some O, some X, none, some O, some X] X O = (some 6, -1) := by
  rw [minimaxL_succ 2 [none, none, some O, some X, some O, some X, none, some O, some X] X O [0, 1, 6] rfl rfl (List.cons_ne_nil _ _)]
  show pickBest [(0, (minimaxL 2 [some X, none, some O, some X, some O, some X, none, some O, some X] O X).2), (1, (minimaxL 2 [none, some X, some O, some X, some O, some X, none, some O, some X] O X).2), (6, (minimaxL 2 [none, none, some O, some X, some O, some X, some X, some O, some X] O X).2)] X = (some 6, -1)
  rw [mmv_0681, mmv_1780, mmv_3511]
  rfl

theorem mmv_3512 : minimaxL 3 [none, none, some O, some X, none, some X, some O, some O, some X] X O = (some 4, 1) := rfl

theorem mmv_3508 : minimaxL 4 [none, none, some O, some X, none, some X, none, some O, some X] O X = (some 4, -1) := by
  rw [minimaxL_succ 3 [none, none, some O, some X, none, some X, none, some O, some X] O X [0, 1, 4, 6] rfl rfl (List.cons_ne_nil _ _)]
  show pickBest [(0, (minimaxL 3 [some O, none, some O, some X, none, some X, none, some O, some X] X O).2), (1, (minimaxL 3 [none, some O, some O, some X, none, some X, none, some O, some X] X O).2), (4, (minimaxL 3 [none, none, some O, some X, some O, some X, none, some O, some X] X O).2), (6, (minimaxL 3 [none, none, some O, some X, none, some X, some O, some O, some X] X O).2)] O = (some 4, -1)
  rw [mmv_3301, mmv_3509, mmv_3510, mmv_3512]
  rfl

theorem mmv_3514 : minimaxL 3 [none, some O, some O, some X, none, none, some X, some O, some X] X O = (some 0, 1) := rfl

theorem mmv_3513 : minimaxL 4 [none, none, some O, some X, none, none, some X, some O, some X] O X = (some 0, 0) := by
  rw [minimaxL_succ 3 [none, none, some O, some X, none, none, some X, some O, some X] O X [0, 1, 4, 5] rfl rfl (List.cons_ne_nil _ _)]
  show pickBest [(0, (minimaxL 3 [some O, none, some O, some X, none, none, some X, some O, some X] X O).2), (1, (minimaxL 3 [none, some O, some O, some X, none, none, some X, some O, some X] X O).2), (4, (minimaxL 3 [none, none, some O, some X, some O, none, some X, some O, some X] X O).2), (5, (minimaxL 3 [none, none, some O, some X, none, some O, some X, some O, some X] X O).2)] O = (some 0, 0)
  rw [mmv_3225, mmv_3514, mmv_3494, mmv_3499]
  rfl

theorem mmv_3504 : minimaxL 5 [none, none, some O, some X, none, none, none, some O, some X] X O = (some 4, 1) := by
  rw [minimaxL_succ 4 [none, none, some O, some X, none, none, none, some O, some X] X O [0, 1, 4, 5, 6] rfl rfl (List.cons_ne_nil _ _)]
  show pickBest [(0, (minimaxL 4 [some X, none, some O, some X, none, none, none, some O, some X] O X).2), (1, (minimaxL 4 [none, some X, some O, some X, none, none, none, some O, some X] O X).2), (4, (minimaxL 4 [none, none, some O, some X, some X, none, none, some O, some X] O X).2), (5, (minimaxL 4 [none, none, some O, some X, none, some X, none, some O, some X] O X).2), (6, (minimaxL 4 [none, none, some O, some X, none, none, some X, some O, some X] O X).2)] X = (some 4, 1)
  rw [mmv_3505, mmv_1786, mmv_3507, mmv_3508, mmv_3513]
  rfl

theorem mmv_3489 : minimaxL 6 [none, none, some O, some X, none, none, none, none, some X] O X = (some 0, 0) := by
  rw [minimaxL_succ 5 [none, none, some O, some X, none, none, none, none, some X] O X [0, 1, 4, 5, 6, 7] rfl rfl (List.cons_ne_nil _ _)]
  show pickBest [(0, (minimaxL 5 [some O, none, some O, some X, none, none, none, none, some X] X O).2), (1, (minimaxL 5 [none, some O, some O, some X, none, none, none, none, some X] X O).2), (4, (minimaxL 5 [none, none, some O, some X, some O, none, none, none, some X] X O).2), (5, (minimaxL 5 [none, none, some O, some X, none, some O, none, none, some X] X O).2), (6, (minimaxL 5 [none, none, some O, some X, none, none, some O, none, some X] X O).2), (7, (minimaxL 5 [none, none, some O, some X, none, none, none, some O, some X] X O).2)] O = (some 0, 0)
  rw [mmv_3281, mmv_3401, mmv_3490, mmv_3495, mmv_3500, mmv_3504]
  rfl

theorem mmv_3432 : minimaxL 7 [none, none, some O, some X, none, none, none, none, none] X O = (some 0, 1) := by
  rw [minimaxL_succ 6 [none, none, some O, some X, none, none, none, none, none] X O [0, 1, 4, 5, 6, 7, 8] rfl rfl (List.cons_ne_nil _ _)]
  show pickBest [(0, (minimaxL 6 [some X, none, some O, some X, none, none, none, none, none] O X).2), (1, (minimaxL 6 [none, some X, some O, some X, none, none, none, none, none] O X).2), (4, (minimaxL 6 [none, none, some O, some X, some X, none, none, none, none] O X).2), (5, (minimaxL 6 [none, none, some O, some X, none, some X, none, none, none] O X).2), (6, (minimaxL 6 [none, none, some O, some X, none, none, some X, none, none] O X).2), (7, (minimaxL 6 [none, none, some O, some X, none, none, none, some X, none] O X).2), (8, (minimaxL 6 [none, none, some O, some X, none, none, none, none, some X] O X).2)] X = (some 0, 1)
  rw [mmv_0602, mmv_1734, mmv_3433, mmv_3444, mmv_3457, mmv_3462, mmv_3489]
  rfl

theorem mmv_3518 : minimaxL 4 [none, none, none, some X, some O, some X, some O, some X, none] O X = (some 2, -1) := rfl

theorem mmv_3519 : minimaxL 4 [none, none, none, some X, some O, some X, some O, none, some X] O X = (some 2, -1) := rfl

theorem mmv_3517 : minimaxL 5 [none, none, none, some X, some O, some X, some O, none, none] X O = (some 8, -1) := by
  rw [minimaxL_succ 4 [none, none, none, some X, some O, some X, some O, none, none] X O [0, 1, 2, 7, 8] rfl rfl (List.cons_ne_nil _ _)]
  show pickBest [(0, (minimaxL 4 [some X, none, none, some X, some O, some X, some O, none, none] O X).2), (1, (minimaxL 4 [none, some X, none, some X, some O, some X, some O, none, none] O X).2), (2, (minimaxL 4 [none, none, some X, some X, some O, some X, some O, none, none] O X).2), (7, (minimaxL 4 [none, none, none, some X, some O, some X, some O, some X, none] O X).2), (8, (minimaxL 4 [none, none, none, some X, some O, some X, some O, none, some X] O X).2)] X = (some 8, -1)
  rw [mmv_0965, mmv_2135, mmv_2935, mmv_3518, mmv_3519]
  rfl

theorem mmv_3521 : minimaxL 4 [none, none, none, some X, some O, some X, some X, some O, none] O X = (some 1, -1) := rfl

theorem mmv_3522 : minimaxL 4 [none, none, none, some X, some O, some X, none, some O, some X] O X = (some 1, -1) := rfl

theorem mmv_3520 : minimaxL 5 [none, none, none, some X, some O, some X, none, some O, none] X O = (some 8, -1) := by
  rw [minimaxL_succ 4 [none, none, none, some X, some O, some X, none, some O, none] X O [0, 1, 2, 6, 8] rfl rfl (List.cons_ne_nil _ _)]
  show pickBest [(0, (minimaxL 4 [some X, none, none, some X, some O, some X, none, some O, none] O X).2), (1, (minimaxL 4 [none, some X, none, some X, some O, some X, none, some O, none] O X).2), (2, (minimaxL 4 [none, none, some X, some X, some O, some X, none, some O, none] O X).2), (6, (minimaxL 4 [none, none, none, some X, some O, some X, some X, some O, none] O X).2), (8, (minimaxL 4 [none, none, none, some X, some O, some X, none, some O, some X] O X).2)] X = (some 8, -1)
  rw [mmv_0983, mmv_2144, mmv_2946, mmv_3521, mmv_3522]
  rfl

theorem mmv_3524 : minimaxL 4 [none, none, none, some X, some O, some X, some X, none, some O] O X = (some 0, -1) := rfl

theorem mmv_3525 : minimaxL 4 [none, none, none, some X, some O, some X, none, some X, some O] O X = (some 0, -1) := rfl

theorem mmv_3523 : minimaxL 5 [none, none, none, some X, some O, some X, none, none, some O] X O = (some 7, -1) := by
  rw [minimaxL_succ 4 [none, none, none, some X, some O, some X, none, none, some O] X O [0, 1, 2, 6, 7] rfl rfl (List.cons_ne_nil _ _)]
  show pickBest [(0, (minimaxL 4 [some X, none, none, some X, some O, some X, none, none, some O] O X).2), (1, (minimaxL 4 [none, some X, none, some X, some O, some X, none, none, some O] O X).2), (2, (minimaxL 4 [none, none, some X, some X, some O, some X, none, none, some O] O X).2), (6, (minimaxL 4 [none, none, none, some X, some O, some X, some X, none, some O] O X).2), (7, (minimaxL 4 [none, none, none, some X, some O, some X, none, some X, some O] O X).2)] X = (some 7, -1)
  rw [mmv_0991, mmv_2163, mmv_2952, mmv_3524, mmv_3525]
  rfl

theorem mmv_3516 : minimaxL 6 [none, none, none, some X, some O, some X, none, none, none] O X = (some 0, -1) := by
  rw [minimaxL_succ 5 [none, none, none, some X, some O, some X, none, none, none] O X [0, 1, 2, 6, 7, 8] rfl rfl (List.cons_ne_nil _ _)]
  show pickBest [(0, (minimaxL 5 [some O, none, none, some X, some O, some X, none, none, none] X O).2), (1, (minimaxL 5 [none, some O, none, some X, some O, some X, none, none, none] X O).2), (2, (minimaxL 5 [none, none, some O, some X, some O, some X, none, none, none] X O).2), (6, (minimaxL 5 [none, none, none, some X, some O, some X, some O, none, none] X O).2), (7, (minimaxL 5 [none, none, none, some X, some O, some X, none, some O, none] X O).2), (8, (minimaxL 5 [none, none, none, some X, some O, some X, none, none, some O] X O).2)] O = (some 0, -1)
  rw [mmv_3167, mmv_3332, mmv_3445, mmv_3517, mmv_3520, mmv_3523]
  rfl

theorem mmv_3527 : minimaxL 5 [none, none, none, some X, some O, some O, some X, none, none] X O = (some 0, 1) := rfl

theorem mmv_3528 : minimaxL 5 [none, none, none, some X, some O, none, some X, some O, none] X O = (some 0, 1) := rfl

theorem mmv_3529 : minimaxL 5 [none, none, none, some X, some O, none, some X, none, some O] X O = (some 0, 1) := rfl

theorem mmv_3526 : minimaxL 6 [none, none, none, some X, some O, none, some X, none, none] O X = (some 0, 0) := by
  rw [minimaxL_succ 5 [none, none, none, some X, some O, none, some X, none, none] O X [0, 1, 2, 5, 7, 8] rfl rfl (List.cons_ne_nil _ _)]
  show pickBest [(0, (minimaxL 5 [some O, none, none, some X, some O, none, some X, none, none] X O).2), (1, (minimaxL 5 [none, some O, none, some X, some O, none, some X, none, none] X O).2), (2, (minimaxL 5 [none, none, some O, some X, some O, none, some X, none, none] X O).2), (5, (minimaxL 5 [none, none, none, some X, some O, some O, some X, none, none] X O).2), (7, (minimaxL 5 [none, none, none, some X, some O, none, some X, some O, none] X O).2), (8, (minimaxL 5 [none, none, none, some X, some O, none, some X, none, some O] X O).2)] O = (some 0, 0)
  rw [mmv_3191, mmv_3351, mmv_3458, mmv_3527, mmv_3528, mmv_3529]
  rfl

theorem mmv_3533 : minimaxL 3 [none, none, none, some X, some O, some O, some X, some X, some O] X O = (some 0, 1) := rfl

theorem mmv_3532 : minimaxL 4 [none, none, none, some X, some O, some O, some X, some X, none] O X = (some 0, 1) := by
  rw [minimaxL_succ 3 [none, none, none, some X, some O, some O, some X, some X, none] O X [0, 1, 2, 8] rfl rfl (List.cons_ne_nil _ _)]
  show pickBest [(0, (minimaxL 3 [some O, none, none, some X, some O, some O, some X, some X, none] X O).2), (1, (minimaxL 3 [none, some O, none, some X, some O, some O, some X, some X, none] X O).2), (2, (minimaxL 3 [none, none, some O, some X, some O, some O, some X, some X, none] X O).2), (8, (minimaxL 3 [none, none, none, some X, some O, some O, some X, some X, some O] X O).2)] O = (some 0, 1)
  rw [mmv_3203, mmv_3365, mmv_3466, mmv_3533]
  rfl

theorem mmv_3535 : minimaxL 3 [none, none, none, some X, some O, some O, some O, some X, some X] X O = (some 2, 0) := by
  rw [minimaxL_succ 2 [none, none, none, some X, some O, some O, some O, some X, some X] X O [0, 1, 2] rfl rfl (List.cons_ne_nil _ _)]
  show pickBest [(0, (minimaxL 2 [some X, none, none, some X, some O, some O, some O, some X, some X] O X).2), (1, (minimaxL 2 [none, some X, none, some X, some O, some O, some O, some X, some X] O X).2), (2, (minimaxL 2 [none, none, some X, some X, some O, some O, some O, some X, some X] O X).2)] X = (some 2, 0)
  rw [mmv_1017, mmv_2117, mmv_2925]
  rfl

theorem mmv_3534 : minimaxL 4 [none, none, none, some X, some O, some O, none, some X, some X] O X = (some 6, 0) := by
  rw [minimaxL_succ 3 [none, none, none, some X, some O, some O, none, some X, some X] O X [0, 1, 2, 6] rfl rfl (List.cons_ne_nil _ _)]
  show pickBest [(0, (minimaxL 3 [some O, none, none, some X, some O, some O, none, some X, some X] X O).2), (1, (minimaxL 3 [none, some O, none, some X, some O, some O, none, some X, some X] X O).2), (2, (minimaxL 3 [none, none, some O, some X, some O, some O, none, some X, some X] X O).2), (6, (minimaxL 3 [none, none, none, some X, some O, some O, some O, some X, some X] X O).2)] O = (some 6, 0)
  rw [mmv_3247, mmv_3369, mmv_3472, mmv_3535]
  rfl

theorem mmv_3531 : minimaxL 5 [none, none, none, some X, some O, some O, none, some X, none] X O = (some 6, 1) := by
  rw [minimaxL_succ 4 [none, none, none, some X, some O, some O, none, some X, none] X O [0, 1, 2, 6, 8] rfl rfl (List.cons_ne_nil _ _)]
  show pickBest [(0, (minimaxL 4 [some X, none, none, some X, some O, some O, none, some X, none] O X).2), (1, (minimaxL 4 [none, some X, none, some X, some O, some O, none, some X, none] O X).2), (2, (minimaxL 4 [none, none, some X, some X, some O, some O, none, some X, none] O X).2), (6, (minimaxL 4 [none, none, none, some X, some O, some O, some X, some X, none] O X).2), (8, (minimaxL 4 [none, none, none, some X, some O, some O, none, some X, some X] O X).2)] X = (some 6, 1)
  rw [mmv_1011, mmv_2110, mmv_2923, mmv_3532, mmv_3534]
  rfl

theorem mmv_3537 : minimaxL 4 [none, none, none, some X, some O, none, some O, some X, some X] O X = (some 2, -1) := rfl

theorem mmv_3536 : minimaxL 5 [none, none, none, some X, some O, none, some O, some X, none] X O = (some 2, 0) := by
  rw [minimaxL_succ 4 [none, none, none, some X, some O, none, some O, some X, none] X O [0, 1, 2, 5, 8] rfl rfl (List.cons_ne_nil _ _)]
  show pickBest [(0, (minimaxL 4 [some X, none, none, some X, some O, none, some O, some X, none] O X).2), (1, (minimaxL 4 [none, some X, none, some X, some O, none, some O, some X, none] O X).2), (2, (minimaxL 4 [none, none, some X, some X, some O, none, some O, some X, none] O X).2), (5, (minimaxL 4 [none, none, none, some X, some O, some X, some O, some X, none] O X).2), (8, (minimaxL 4 [none, none, none, some X, some O, none, some O, some X, some X] O X).2)] X = (some 2, 0)
  rw [mmv_0966, mmv_2136, mmv_2940, mmv_3518, mmv_3537]
  rfl

theorem mmv_3539 : minimaxL 4 [none, none, none, some X, some O, none, some X, some X, some O] O X = (some 0, -1) := rfl

theorem mmv_3538 : minimaxL 5 [none, none, none, some X, some O, none, none, some X, some O] X O = (some 0, 0) := by
  rw [minimaxL_succ 4 [none, none, none, some X, some O, none, none, some X, some O] X O [0, 1, 2, 5, 6] rfl rfl (List.cons_ne_nil _ _)]
  show pickBest [(0, (minimaxL 4 [some X, none, none, some X, some O, none, none, some X, some O] O X).2), (1, (minimaxL 4 [none, some X, none, some X, some O, none, none, some X, some O] O X).2), (2, (minimaxL 4 [none, none, some X, some X, some O, none, none, some X, some O] O X).2), (5, (minimaxL 4 [none, none, none, some X, some O, some X, none, some X, some O] O X).2), (6, (minimaxL 4 [none, none, none, some X, some O, none, some X, some X, some O] O X).2)] X = (some 0, 0)
  rw [mmv_1036, mmv_2165, mmv_2954, mmv_3525, mmv_3539]
  rfl

theorem mmv_3530 : minimaxL 6 [none, none, none, some X, some O, none, none, some X, none] O X = (some 0, 0) := by
  rw [minimaxL_succ 5 [none, none, none, some X, some O, none, none, some X, none] O X [0, 1, 2, 5, 6, 8] rfl rfl (List.cons_ne_nil _ _)]
  show pickBest [(0, (minimaxL 5 [some O, none, none, some X, some O, none, none, some X, none] X O).2), (1, (minimaxL 5 [none, some O, none, some X, some O, none, none, some X, none] X O).2), (2, (minimaxL 5 [none, none, some O, some X, some O, none, none, some X, none] X O).2), (5, (minimaxL 5 [none, none, none, some X, some O, some O, none, some X, none] X O).2), (6, (minimaxL 5 [none, none, none, some X, some O, none, some O, some X, none] X O).2), (8, (minimaxL 5 [none, none, none, some X, some O, none, none, some X, some O] X O).2)] O = (some 0, 0)
  rw [mmv_3243, mmv_3361, mmv_3463, mmv_3531, mmv_3536, mmv_3538]
  rfl

theorem mmv_3543 : minimaxL 3 [none, none, none, some X, some O, some O, some X, some O, some X] X O = (some 0, 1) := rfl

theorem mmv_3542 : minimaxL 4 [none, none, none, some X, some O, some O, some X, none, some X] O X = (some 0, 1) := by
  rw [minimaxL_succ 3 [none, none, none, some X, some O, some O, some X, none, some X] O X [0, 1, 2, 7] rfl rfl (List.cons_ne_nil _ _)]
  show pickBest [(0, (minimaxL 3 [some O, none, none, some X, some O, some O, some X, none, some X] X O).2), (1, (minimaxL 3 [none, some O, none, some X, some O, some O, some X, none, some X] X O).2), (2, (minimaxL 3 [none, none, some O, some X, some O, some O, some X, none, some X] X O).2), (7, (minimaxL 3 [none, none, none, some X, some O, some O, some X, some O, some X] X O).2)] O = (some 0, 1)
  rw [mmv_3196, mmv_3416, mmv_3493, mmv_3543]
  rfl

theorem mmv_3541 : minimaxL 5 [none, none, none, some X, some O, some O, none, none, some X] X O = (some 6, 1) := by
  rw [minimaxL_succ 4 [none, none, none, some X, some O, some O, none, none, some X] X O [0, 1, 2, 6, 7] rfl rfl (List.cons_ne_nil _ _)]
  show pickBest [(0, (minimaxL 4 [some X, none, none, some X, some O, some O, none, none, some X] O X).2), (1, (minimaxL 4 [none, some X, none, some X, some O, some O, none, none, some X] O X).2), (2, (minimaxL 4 [none, none, some X, some X, some O, some O, none, none, some X] O X).2), (6, (minimaxL 4 [none, none, none, some X, some O, some O, some X, none, some X] O X).2), (7, (minimaxL 4 [none, none, none, some X, some O, some O, none, some X, some X] O X).2)] X = (some 6, 1)
  rw [mmv_1047, mmv_2122, mmv_2929, mmv_3542, mmv_3534]
  rfl

theorem mmv_3544 : minimaxL 5 [none, none, none, some X, some O, none, some O, none, some X] X O = (some 2, 0) := by
  rw [minimaxL_succ 4 [none, none, none, some X, some O, none, some O, none, some X] X O [0, 1, 2, 5, 7] rfl rfl (List.cons_ne_nil _ _)]
  show pickBest [(0, (minimaxL 4 [some X, none, none, some X, some O, none, some O, none, some X] O X).2), (1, (minimaxL 4 [none, some X, none, some X, some O, none, some O, none, some X] O X).2), (2, (minimaxL 4 [none, none, some X, some X, some O, none, some O, none, some X] O X).2), (5, (minimaxL 4 [none, none, none, some X, some O, some X, some O, none, some X] O X).2), (7, (minimaxL 4 [none, none, none, some X, some O, none, some O, some X, some X] O X).2)] X = (some 2, 0)
  rw [mmv_0967, mmv_2137, mmv_2942, mmv_3519, mmv_3537]
  rfl

theorem mmv_3546 : minimaxL 4 [none, none, none, some X, some O, none, some X, some O, some X] O X = (some 1, -1) := rfl

theorem mmv_3545 : minimaxL 5 [none, none, none, some X, some O, none, none, some O, some X] X O = (some 1, 0) := by
  rw [minimaxL_succ 4 [none, none, none, some X, some O, none, none, some O, some X] X O [0, 1, 2, 5, 6] rfl rfl (List.cons_ne_nil _ _)]
  show pickBest [(0, (minimaxL 4 [some X, none, none, some X, some O, none, none, some O, some X] O X).2), (1, (minimaxL 4 [none, some X, none, some X, some O, none, none, some O, some X] O X).2), (2, (minimaxL 4 [none, none, some X, some X, some O, none, none, some O, some X] O X).2), (5, (minimaxL 4 [none, none, none, some X, some O, some X, none, some O, some X] O X).2), (6, (minimaxL 4 [none, none, none, some X, some O, none, some X, some O, some X] O X).2)] X = (some 1, 0)
  rw [mmv_1068, mmv_2155, mmv_2948, mmv_3522, mmv_3546]
  rfl

theorem mmv_3540 : minimaxL 6 [none, none, none, some X, some O, none, none, none, some X] O X = (some 0, 0) := by
  rw [minimaxL_succ 5 [none, none, none, some X, some O, none, none, none, some X] O X [0, 1, 2, 5, 6, 7] rfl rfl (List.cons_ne_nil _ _)]
  show pickBest [(0, (minimaxL 5 [some O, none, none, some X, some O, none, none, none, some X] X O).2), (1, (minimaxL 5 [none, some O, none, some X, some O, none, none, none, some X] X O).2), (2, (minimaxL 5 [none, none, some O, some X, some O, none, none, none, some X] X O).2), (5, (minimaxL 5 [none, none, none, some X, some O, some O, none, none, some X] X O).2), (6, (minimaxL 5 [none, none, none, some X, some O, none, some O, none, some X] X O).2), (7, (minimaxL 5 [none, none, none, some X, some O, none, none, some O, some X] X O).2)] O = (some 0, 0)
  rw [mmv_3284, mmv_3409, mmv_3490, mmv_3541, mmv_3544, mmv_3545]
  rfl

theorem mmv_3515 : minimaxL 7 [none, none, none, some X, some O, none, none, none, none] X O = (some 8, 0) := by
  rw [minimaxL_succ 6 [none, none, none, some X, some O, none, none, none, none] X O [0, 1, 2, 5, 6, 7, 8] rfl rfl (List.cons_ne_nil _ _)]
  show pickBest [(0, (minimaxL 6 [some X, none, none, some X, some O, none, none, none, none] O X).2), (1, (minimaxL 6 [none, some X, none, some X, some O, none, none, none, none] O X).2), (2, (minimaxL 6 [none, none, some X, some X, some O, none, none, none, none] O X).2), (5, (minimaxL 6 [none, none, none, some X, some O, some X, none, none, none] O X).2), (6, (minimaxL 6 [none, none, none, some X, some O, none, some X, none, none] O X).2), (7, (minimaxL 6 [none, none, none, some X, some O, none, none, some X, none] O X).2), (8, (minimaxL 6 [none, none, none, some X, some O, none, none, none, some X] O X).2)] X = (some 8, 0)
  rw [mmv_0957, mmv_2097, mmv_2915, mmv_3516, mmv_3526, mmv_3530, mmv_3540]
  rfl

theorem mmv_3551 : minimaxL 3 [none, none, none, some X, some X, some O, some O, some X, some O] X O = (some 1, 1) := rfl

theorem mmv_3550 : minimaxL 4 [none, none, none, some X, some X, some O, some O, some X, none] O X = (some 1, 0) := by
  rw [minimaxL_succ 3 [none, none, none, some X, some X, some O, some O, some X, none] O X [0, 1, 2, 8] rfl rfl (List.cons_ne_nil _ _)]
  show pickBest [(0, (minimaxL 3 [some O, none, none, some X, some X, some O, some O, some X, none] X O).2), (1, (minimaxL 3 [none, some O, none, some X, some X, some O, some O, some X, none] X O).2), (2, (minimaxL 3 [none, none, some O, some X, some X, some O, some O, some X, none] X O).2), (8, (minimaxL 3 [none, none, none, some X, some X, some O, some O, some X, some O] X O).2)] O = (some 1, 0)
  rw [mmv_3146, mmv_3318, mmv_3477, mmv_3551]
  rfl

theorem mmv_3553 : minimaxL 3 [none, none, none, some X, some X, some O, some O, some O, some X] X O = (some 0, 1) := rfl

theorem mmv_3552 : minimaxL 4 [none, none, none, some X, some X, some O, some O, none, some X] O X = (some 0, 0) := by
  rw [minimaxL_succ 3 [none, none, none, some X, some X, some O, some O, none, some X] O X [0, 1, 2, 7] rfl rfl (List.cons_ne_nil _ _)]
  show pickBest [(0, (minimaxL 3 [some O, none, none, some X, some X, some O, some O, none, some X] X O).2), (1, (minimaxL 3 [none, some O, none, some X, some X, some O, some O, none, some X] X O).2), (2, (minimaxL 3 [none, none, some O, some X, some X, some O, some O, none, some X] X O).2), (7, (minimaxL 3 [none, none, none, some X, some X, some O, some O, some O, some X] X O).2)] O = (some 0, 0)
  rw [mmv_3153, mmv_3325, mmv_3439, mmv_3553]
  rfl

theorem mmv_3549 : minimaxL 5 [none, none, none, some X, some X, some O, some O, none, none] X O = (some 8, 0) := by
  rw [minimaxL_succ 4 [none, none, none, some X, some X, some O, some O, none, none] X O [0, 1, 2, 7, 8] rfl rfl (List.cons_ne_nil _ _)]
  show pickBest [(0, (minimaxL 4 [some X, none, none, some X, some X, some O, some O, none, none] O X).2), (1, (minimaxL 4 [none, some X, none, some X, some X, some O, some O, none, none] O X).2), (2, (minimaxL 4 [none, none, some X, some X, some X, some O, some O, none, none] O X).2), (7, (minimaxL 4 [none, none, none, some X, some X, some O, some O, some X, none] O X).2), (8, (minimaxL 4 [none, none, none, some X, some X, some O, some O, none, some X] O X).2)] X = (some 8, 0)
  rw [mmv_1092, mmv_2244, mmv_2993, mmv_3550, mmv_3552]
  rfl

theorem mmv_3556 : minimaxL 3 [some X, none, some O, some X, some X, some O, none, some O, none] X O = (some 6, 1) := rfl

theorem mmv_3557 : minimaxL 3 [some X, none, none, some X, some X, some O, none, some O, some O] X O = (some 6, 1) := rfl

theorem mmv_3555 : minimaxL 4 [some X, none, none, some X, some X, some O, none, some O, none] O X = (some 1, 1) := by
  rw [minimaxL_succ 3 [some X, none, none, some X, some X, some O, none, some O, none] O X [1, 2, 6, 8] rfl rfl (List.cons_ne_nil _ _)]
  show pickBest [(1, (minimaxL 3 [some X, some O, none, some X, some X, some O, none, some O, none] X O).2), (2, (minimaxL 3 [some X, none, some O, some X, some X, some O, none, some O, none] X O).2), (6, (minimaxL 3 [some X, none, none, some X, some X, some O, some O, some O, none] X O).2), (8, (minimaxL 3 [some X, none, none, some X, some X, some O, none, some O, some O] X O).2)] O = (some 1, 1)
  rw [mmv_3308, mmv_3556, mmv_1093, mmv_3557]
  rfl

theorem mmv_3559 : minimaxL 3 [none, none, some O, some X, some X, some O, some X, some O, none] X O = (some 0, 1) := rfl

theorem mmv_3560 : minimaxL 3 [none, none, none, some X, some X, some O, some X, some O, some O] X O = (some 0, 1) := rfl

theorem mmv_3558 : minimaxL 4 [none, none, none, some X, some X, some O, some X, some O, none] O X = (some 0, 1) := by
  rw [minimaxL_succ 3 [none, none, none, some X, some X, some O, some X, some O, none] O X [0, 1, 2, 8] rfl rfl (List.cons_ne_nil _ _)]
  show pickBest [(0, (minimaxL 3 [some O, none, none, some X, some X, some O, some X, some O, none] X O).2), (1, (minimaxL 3 [none, some O, none, some X, some X, some O, some X, some O, none] X O).2), (2, (minimaxL 3 [none, none, some O, some X, some X, some O, some X, some O, none] X O).2), (8, (minimaxL 3 [none, none, none, some X, some X, some O, some X, some O, some O] X O).2)] O = (some 0, 1)
  rw [mmv_3139, mmv_3311, mmv_3559, mmv_3560]
  rfl

theorem mmv_3561 : minimaxL 4 [none, none, none, some X, some X, some O, none, some O, some X] O X = (some 0, 0) := by
  rw [minimaxL_succ 3 [none, none, none, some X, some X, some O, none, some O, some X] O X [0, 1, 2, 6] rfl rfl (List.cons_ne_nil _ _)]
  show pickBest [(0, (minimaxL 3 [some O, none, none, some X, some X, some O, none, some O, some X] X O).2), (1, (minimaxL 3 [none, some O, none, some X, some X, some O, none, some O, some X] X O).2), (2, (minimaxL 3 [none, none, some O, some X, some X, some O, none, some O, some X] X O).2), (6, (minimaxL 3 [none, none, none, some X, some X, some O, some O, some O, some X] X O).2)] O = (some 0, 0)
  rw [mmv_3157, mmv_3326, mmv_3440, mmv_3553]
  rfl

theorem mmv_3554 : minimaxL 5 [none, none, none, some X, some X, some O, none, some O, none] X O = (some 6, 1) := by
  rw [minimaxL_succ 4 [none, none, none, some X, some X, some O, none, some O, none] X O [0, 1, 2, 6, 8] rfl rfl (List.cons_ne_nil _ _)]
  show pickBest [(0, (minimaxL 4 [some X, none, none, some X, some X, some O, none, some O, none] O X).2), (1, (minimaxL 4 [none, some X, none, some X, some X, some O, none, some O, none] O X).2), (2, (minimaxL 4 [none, none, some X, some X, some X, some O, none, some O, none] O X).2), (6, (minimaxL 4 [none, none, none, some X, some X, some O, some X, some O, none] O X).2), (8, (minimaxL 4 [none, none, none, some X, some X, some O, none, some O, some X] O X).2)] X = (some 6, 1)
  rw [mmv_3555, mmv_2262, mmv_3009, mmv_3558, mmv_3561]
  rfl

theorem mmv_3563 : minimaxL 4 [none, none, none, some X, some X, some O, some X, none, some O] O X = (some 2, -1) := rfl

theorem mmv_3564 : minimaxL 4 [none, none, none, some X, some X, some O, none, some X, some O] O X = (some 2, -1) := rfl

theorem mmv_3562 : minimaxL 5 [none, none, none, some X, some X, some O, none, none, some O] X O = (some 2, 0) := by
  rw [minimaxL_succ 4 [none, none, none, some X, some X, some O, none, none, some O] X O [0, 1, 2, 6, 7] rfl rfl (List.cons_ne_nil _ _)]
  show pickBest [(0, (minimaxL 4 [some X, none, none, some X, some X, some O, none, none, some O] O X).2), (1, (minimaxL 4 [none, some X, none, some X, some X, some O, none, none, some O] O X).2), (2, (minimaxL 4 [none, none, some X, some X, some X, some O, none, none, some O] O X).2), (6, (minimaxL 4 [none, none, none, some X, some X, some O, some X, none, some O] O X).2), (7, (minimaxL 4 [none, none, none, some X, some X, some O, none, some X, some O] O X).2)] X = (some 2, 0)
  rw [mmv_1118, mmv_2273, mmv_3016, mmv_3563, mmv_3564]
  rfl

theorem mmv_3548 : minimaxL 6 [none, none, none, some X, some X, some O, none, none, none] O X = (some 0, 0) := by
  rw [minimaxL_succ 5 [none, none, none, some X, some X, some O, none, none, none] O X [0, 1, 2, 6, 7, 8] rfl rfl (List.cons_ne_nil _ _)]
  show pickBest [(0, (minimaxL 5 [some O, none, none, some X, some X, some O, none, none, none] X O).2), (1, (minimaxL 5 [none, some O, none, some X, some X, some O, none, none, none] X O).2), (2, (minimaxL 5 [none, none, some O, some X, some X, some O, none, none, none] X O).2), (6, (minimaxL 5 [none, none, none, some X, some X, some O, some O, none, none] X O).2), (7, (minimaxL 5 [none, none, none, some X, some X, some O, none, some O, none] X O).2), (8, (minimaxL 5 [none, none, none, some X, some X, some O, none, none, some O] X O).2)] O = (some 0, 0)
  rw [mmv_3133, mmv_3305, mmv_3434, mmv_3549, mmv_3554, mmv_3562]
  rfl

theorem mmv_3566 : minimaxL 5 [none, none, none, some X, none, some O, some X, some O, none] X O = (some 0, 1) := rfl

theorem mmv_3567 : minimaxL 5 [none, none, none, some X, none, some O, some X, none, some O] X O = (some 0, 1) := rfl

theorem mmv_3565 : minimaxL 6 [none, none, none, some X, none, some O, some X, none, none] O X = (some 0, 0) := by
  rw [minimaxL_succ 5 [none, none, none, some X, none, some O, some X, none, none] O X [0, 1, 2, 4, 7, 8] rfl rfl (List.cons_ne_nil _ _)]
  show pickBest [(0, (minimaxL 5 [some O, none, none, some X, none, some O, some X, none, none] X O).2), (1, (minimaxL 5 [none, some O, none, some X, none, some O, some X, none, none] X O).2), (2, (minimaxL 5 [none, none, some O, some X, none, some O, some X, none, none] X O).2), (4, (minimaxL 5 [none, none, none, some X, some O, some O, some X, none, none] X O).2), (7, (minimaxL 5 [none, none, none, some X, none, some O, some X, some O, none] X O).2), (8, (minimaxL 5 [none, none, none, some X, none, some O, some X, none, some O] X O).2)] O = (some 0, 0)
  rw [mmv_3199, mmv_3352, mmv_3459, mmv_3527, mmv_3566, mmv_3567]
  rfl

theorem mmv_3570 : minimaxL 4 [none, none, none, some X, none, some O, some O, some X, some X] O X = (some 0, 0) := by
  rw [minimaxL_succ 3 [none, none, none, some X, none, some O, some O, some X, some X] O X [0, 1, 2, 4] rfl rfl (List.cons_ne_nil _ _)]
  show pickBest [(0, (minimaxL 3 [some O, none, none, some X, none, some O, some O, some X, some X] X O).2), (1, (minimaxL 3 [none, some O, none, some X, none, some O, some O, some X, some X] X O).2), (2, (minimaxL 3 [none, none, some O, some X, none, some O, some O, some X, some X] X O).2), (4, (minimaxL 3 [none, none, none, some X, some O, some O, some O, some X, some X] X O).2)] O = (some 0, 0)
  rw [mmv_3254, mmv_3377, mmv_3473, mmv_3535]
  rfl

theorem mmv_3569 : minimaxL 5 [none, none, none, some X, none, some O, some O, some X, none] X O = (some 8, 0) := by
  rw [minimaxL_succ 4 [none, none, none, some X, none, some O, some O, some X, none] X O [0, 1, 2, 4, 8] rfl rfl (List.cons_ne_nil _ _)]
  show pickBest [(0, (minimaxL 4 [some X, none, none, some X, none, some O, some O, some X, none] O X).2), (1, (minimaxL 4 [none, some X, none, some X, none, some O, some O, some X, none] O X).2), (2, (minimaxL 4 [none, none, some X, some X, none, some O, some O, some X, none] O X).2), (4, (minimaxL 4 [none, none, none, some X, some X, some O, some O, some X, none] O X).2), (8, (minimaxL 4 [none, none, none, some X, none, some O, some O, some X, some X] O X).2)] X = (some 8, 0)
  rw [mmv_1098, mmv_2250, mmv_3000, mmv_3550, mmv_3570]
  rfl

theorem mmv_3572 : minimaxL 4 [none, none, none, some X, none, some O, some X, some X, some O] O X = (some 2, -1) := rfl

theorem mmv_3571 : minimaxL 5 [none, none, none, some X, none, some O, none, some X, some O] X O = (some 2, 1) := by
  rw [minimaxL_succ 4 [none, none, none, some X, none, some O, none, some X, some O] X O [0, 1, 2, 4, 6] rfl rfl (List.cons_ne_nil _ _)]
  show pickBest [(0, (minimaxL 4 [some X, none, none, some X, none, some O, none, some X, some O] O X).2), (1, (minimaxL 4 [none, some X, none, some X, none, some O, none, some X, some O] O X).2), (2, (minimaxL 4 [none, none, some X, some X, none, some O, none, some X, some O] O X).2), (4, (minimaxL 4 [none, none, none, some X, some X, some O, none, some X, some O] O X).2), (6, (minimaxL 4 [none, none, none, some X, none, some O, some X, some X, some O] O X).2)] X = (some 2, 1)
  rw [mmv_1141, mmv_2275, mmv_3018, mmv_3564, mmv_3572]
  rfl

theorem mmv_3568 : minimaxL 6 [none, none, none, some X, none, some O, none, some X, none] O X = (some 0, 0) := by
  rw [minimaxL_succ 5 [none, none, none, some X, none, some O, none, some X, none] O X [0, 1, 2, 4, 6, 8] rfl rfl (List.cons_ne_nil _ _)]
  show pickBest [(0, (minimaxL 5 [some O, none, none, some X, none, some O, none, some X, none] X O).2), (1, (minimaxL 5 [none, some O, none, some X, none, some O, none, some X, none] X O).2), (2, (minimaxL 5 [none, none, some O, some X, none, some O, none, some X, none] X O).2), (4, (minimaxL 5 [none, none, none, some X, some O, some O, none, some X, none] X O).2), (6, (minimaxL 5 [none, none, none, some X, none, some O, some O, some X, none] X O).2), (8, (minimaxL 5 [none, none, none, some X, none, some O, none, some X, some O] X O).2)] O = (some 0, 0)
  rw [mmv_3250, mmv_3371, mmv_3469, mmv_3531, mmv_3569, mmv_3571]
  rfl

theorem mmv_3574 : minimaxL 5 [none, none, none, some X, none, some O, some O, none, some X] X O = (some 7, 0) := by
  rw [minimaxL_succ 4 [none, none, none, some X, none, some O, some O, none, some X] X O [0, 1, 2, 4, 7] rfl rfl (List.cons_ne_nil _ _)]
  show pickBest [(0, (minimaxL 4 [some X, none, none, some X, none, some O, some O, none, some X] O X).2), (1, (minimaxL 4 [none, some X, none, some X, none, some O, some O, none, some X] O X).2), (2, (minimaxL 4 [none, none, some X, some X, none, some O, some O, none, some X] O X).2), (4, (minimaxL 4 [none, none, none, some X, some X, some O, some O, none, some X] O X).2), (7, (minimaxL 4 [none, none, none, some X, none, some O, some O, some X, some X] O X).2)] X = (some 7, 0)
  rw [mmv_1105, mmv_2253, mmv_3003, mmv_3552, mmv_3570]
  rfl

theorem mmv_3576 : minimaxL 4 [some X, none, none, some X, none, some O, none, some O, some X] O X = (some 1, 1) := by
  rw [minimaxL_succ 3 [some X, none, none, some X, none, some O, none, some O, some X] O X [1, 2, 4, 6] rfl rfl (List.cons_ne_nil _ _)]
  show pickBest [(1, (minimaxL 3 [some X, some O, none, some X, none, some O, none, some O, some X] X O).2), (2, (minimaxL 3 [some X, none, some O, some X, none, some O, none, some O, some X] X O).2), (4, (minimaxL 3 [some X, none, none, some X, some O, some O, none, some O, some X] X O).2), (6, (minimaxL 3 [some X, none, none, some X, none, some O, some O, some O, some X] X O).2)] O = (some 1, 1)
  rw [mmv_3413, mmv_3497, mmv_1054, mmv_1107]
  rfl

theorem mmv_3577 : minimaxL 4 [none, none, none, some X, none, some O, some X, some O, some X] O X = (some 0, 0) := by
  rw [minimaxL_succ 3 [none, none, none, some X, none, some O, some X, some O, some X] O X [0, 1, 2, 4] rfl rfl (List.cons_ne_nil _ _)]
  show pickBest [(0, (minimaxL 3 [some O, none, none, some X, none, some O, some X, some O, some X] X O).2), (1, (minimaxL 3 [none, some O, none, some X, none, some O, some X, some O, some X] X O).2), (2, (minimaxL 3 [none, none, some O, some X, none, some O, some X, some O, some X] X O).2), (4, (minimaxL 3 [none, none, none, some X, some O, some O, some X, some O, some X] X O).2)] O = (some 0, 0)
  rw [mmv_3209, mmv_3417, mmv_3499, mmv_3543]
  rfl

theorem mmv_3575 : minimaxL 5 [none, none, none, some X, none, some O, none, some O, some X] X O = (some 0, 1) := by
  rw [minimaxL_succ 4 [none, none, none, some X, none, some O, none, some O, some X] X O [0, 1, 2, 4, 6] rfl rfl (List.cons_ne_nil _ _)]
  show pickBest [(0, (minimaxL 4 [some X, none, none, some X, none, some O, none, some O, some X] O X).2), (1, (minimaxL 4 [none, some X, none, some X, none, some O, none, some O, some X] O X).2), (2, (minimaxL 4 [none, none, some X, some X, none, some O, none, some O, some X] O X).2), (4, (minimaxL 4 [none, none, none, some X, some X, some O, none, some O, some X] O X).2), (6, (minimaxL 4 [none, none, none, some X, none, some O, some X, some O, some X] O X).2)] X = (some 0, 1)
  rw [mmv_3576, mmv_2269, mmv_3013, mmv_3561, mmv_3577]
  rfl

theorem mmv_3573 : minimaxL 6 [none, none, none, some X, none, some O, none, none, some X] O X = (some 0, 0) := by
  rw [minimaxL_succ 5 [none, none, none, some X, none, some O, none, none, some X] O X [0, 1, 2, 4, 6, 7] rfl rfl (List.cons_ne_nil _ _)]
  show pickBest [(0, (minimaxL 5 [some O, none, none, some X, none, some O, none, none, some X] X O).2), (1, (minimaxL 5 [none, some O, none, some X, none, some O, none, none, some X] X O).2), (2, (minimaxL 5 [none, none, some O, some X, none, some O, none, none, some X] X O).2), (4, (minimaxL 5 [none, none, none, some X, some O, some O, none, none, some X] X O).2), (6, (minimaxL 5 [none, none, none, some X, none, some O, some O, none, some X] X O).2), (7, (minimaxL 5 [none, none, none, some X, none, some O, none, some O, some X] X O).2)] O = (some 0, 0)
  rw [mmv_3285, mmv_3411, mmv_3495, mmv_3541, mmv_3574, mmv_3575]
  rfl

theorem mmv_3547 : minimaxL 7 [none, none, none, some X, none, some O, none, none, none] X O = (some 8, 0) := by
  rw [minimaxL_succ 6 [none, none, none, some X, none, some O, none, none, none] X O [0, 1, 2, 4, 6, 7, 8] rfl rfl (List.cons_ne_nil _ _)]
  show pickBest [(0, (minimaxL 6 [some X, none, none, some X, none, some O, none, none, none] O X).2), (1, (minimaxL 6 [none, some X, none, some X, none, some O, none, none, none] O X).2), (2, (minimaxL 6 [none, none, some X, some X, none, some O, none, none, none] O X).2), (4, (minimaxL 6 [none, none, none, some X, some X, some O, none, none, none] O X).2), (6, (minimaxL 6 [none, none, none, some X, none, some O, some X, none, none] O X).2), (7, (minimaxL 6 [none, none, none, some X, none, some O, none, some X, none] O X).2), (8, (minimaxL 6 [none, none, none, some X, none, some O, none, none, some X] O X).2)] X = (some 8, 0)
  rw [mmv_1079, mmv_2239, mmv_2991, mmv_3548, mmv_3565, mmv_3568, mmv_3573]
  rfl

theorem mmv_3580 : minimaxL 5 [none, none, none, some X, some X, none, some O, some O, none] X O = (some 5, 1) := rfl

theorem mmv_3581 : minimaxL 5 [none, none, none, some X, some X, none, some O, none, some O] X O = (some 5, 1) := rfl

theorem mmv_3579 : minimaxL 6 [none, none, none, some X, some X, none, some O, none, none] O X = (some 5, 0) := by
  rw [minimaxL_succ 5 [none, none, none, some X, some X, none, some O, none, none] O X [0, 1, 2, 5, 7, 8] rfl rfl (List.cons_ne_nil _ _)]
  show pickBest [(0, (minimaxL 5 [some O, none, none, some X, some X, none, some O, none, none] X O).2), (1, (minimaxL 5 [none, some O, none, some X, some X, none, some O, none, none] X O).2), (2, (minimaxL 5 [none, none, some O, some X, some X, none, some O, none, none] X O).2), (5, (minimaxL 5 [none, none, none, some X, some X, some O, some O, none, none] X O).2), (7, (minimaxL 5 [none, none, none, some X, some X, none, some O, some O, none] X O).2), (8, (minimaxL 5 [none, none, none, some X, some X, none, some O, none, some O] X O).2)] O = (some 5, 0)
  rw [mmv_3161, mmv_3327, mmv_3441, mmv_3549, mmv_3580, mmv_3581]
  rfl

theorem mmv_3583 : minimaxL 5 [none, none, none, some X, none, some X, some O, some O, none] X O = (some 4, 1) := rfl

theorem mmv_3584 : minimaxL 5 [none, none, none, some X, none, some X, some O, none, some O] X O = (some 4, 1) := rfl

theorem mmv_3582 : minimaxL 6 [none, none, none, some X, none, some X, some O, none, none] O X = (some 4, -1) := by
  rw [minimaxL_succ 5 [none, none, none, some X, none, some X, some O, none, none] O X [0, 1, 2, 4, 7, 8] rfl rfl (List.cons_ne_nil _ _)]
  show pickBest [(0, (minimaxL 5 [some O, none, none, some X, none, some X, some O, none, none] X O).2), (1, (minimaxL 5 [none, some O, none, some X, none, some X, some O, none, none] X O).2), (2, (minimaxL 5 [none, none, some O, some X, none, some X, some O, none, none] X O).2), (4, (minimaxL 5 [none, none, none, some X, some O, some X, some O, none, none] X O).2), (7, (minimaxL 5 [none, none, none, some X, none, some X, some O, some O, none] X O).2), (8, (minimaxL 5 [none, none, none, some X, none, some X, some O, none, some O] X O).2)] O = (some 4, -1)
  rw [mmv_3177, mmv_3346, mmv_3454, mmv_3517, mmv_3583, mmv_3584]
  rfl

theorem mmv_3587 : minimaxL 4 [none, none, none, some X, some X, none, some O, some X, some O] O X = (some 0, 1) := by
  rw [minimaxL_succ 3 [none, none, none, some X, some X, none, some O, some X, some O] O X [0, 1, 2, 5] rfl rfl (List.cons_ne_nil _ _)]
  show pickBest [(0, (minimaxL 3 [some O, none, none, some X, some X, none, some O, some X, some O] X O).2), (1, (minimaxL 3 [none, some O, none, some X, some X, none, some O, some X, some O] X O).2), (2, (minimaxL 3 [none, none, some O, some X, some X, none, some O, some X, some O] X O).2), (5, (minimaxL 3 [none, none, none, some X, some X, some O, some O, some X, some O] X O).2)] O = (some 0, 1)
  rw [mmv_3259, mmv_3381, mmv_3478, mmv_3551]
  rfl

theorem mmv_3589 : minimaxL 3 [none, none, none, some X, some O, some X, some O, some X, some O] X O = (some 2, -1) := by
  rw [minimaxL_succ 2 [none, none, none, some X, some O, some X, some O, some X, some O] X O [0, 1, 2] rfl rfl (List.cons_ne_nil _ _)]
  show pickBest [(0, (minimaxL 2 [some X, none, none, some X, some O, some X, some O, some X, some O] O X).2), (1, (minimaxL 2 [none, some X, none, some X, some O, some X, some O, some X, some O] O X).2), (2, (minimaxL 2 [none, none, some X, some X, some O, some X, some O, some X, some O] O X).2)] X = (some 2, -1)
  rw [mmv_0995, mmv_2340, mmv_2939]
  rfl

theorem mmv_3588 : minimaxL 4 [none, none, none, some X, none, some X, some O, some X, some O] O X = (some 4, -1) := by
  rw [minimaxL_succ 3 [none, none, none, some X, none, some X, some O, some X, some O] O X [0, 1, 2, 4] rfl rfl (List.cons_ne_nil _ _)]
  show pickBest [(0, (minimaxL 3 [some O, none, none, some X, none, some X, some O, some X, some O] X O).2), (1, (minimaxL 3 [none, some O, none, some X, none, some X, some O, some X, some O] X O).2), (2, (minimaxL 3 [none, none, some O, some X, none, some X, some O, some X, some O] X O).2), (4, (minimaxL 3 [none, none, none, some X, some O, some X, some O, some X, some O] X O).2)] O = (some 4, -1)
  rw [mmv_3264, mmv_3384, mmv_3487, mmv_3589]
  rfl

theorem mmv_3586 : minimaxL 5 [none, none, none, some X, none, none, some O, some X, some O] X O = (some 4, 1) := by
  rw [minimaxL_succ 4 [none, none, none, some X, none, none, some O, some X, some O] X O [0, 1, 2, 4, 5] rfl rfl (List.cons_ne_nil _ _)]
  show pickBest [(0, (minimaxL 4 [some X, none, none, some X, none, none, some O, some X, some O] O X).2), (1, (minimaxL 4 [none, some X, none, some X, none, none, some O, some X, some O] O X).2), (2, (minimaxL 4 [none, none, some X, some X, none, none, some O, some X, some O] O X).2), (4, (minimaxL 4 [none, none, none, some X, some X, none, some O, some X, some O] O X).2), (5, (minimaxL 4 [none, none, none, some X, none, some X, some O, some X, some O] O X).2)] X = (some 4, 1)
  rw [mmv_1170, mmv_2336, mmv_3076, mmv_3587, mmv_3588]
  rfl

theorem mmv_3585 : minimaxL 6 [none, none, none, some X, none, none, some O, some X, none] O X = (some 1, 0) := by
  rw [minimaxL_succ 5 [none, none, none, some X, none, none, some O, some X, none] O X [0, 1, 2, 4, 5, 8] rfl rfl (List.cons_ne_nil _ _)]
  show pickBest [(0, (minimaxL 5 [some O, none, none, some X, none, none, some O, some X, none] X O).2), (1, (minimaxL 5 [none, some O, none, some X, none, none, some O, some X, none] X O).2), (2, (minimaxL 5 [none, none, some O, some X, none, none, some O, some X, none] X O).2), (4, (minimaxL 5 [none, none, none, some X, some O, none, some O, some X, none] X O).2), (5, (minimaxL 5 [none, none, none, some X, none, some O, some O, some X, none] X O).2), (8, (minimaxL 5 [none, none, none, some X, none, none, some O, some X, some O] X O).2)] O = (some 1, 0)
  rw [mmv_3255, mmv_3378, mmv_3475, mmv_3536, mmv_3569, mmv_3586]
  rfl

theorem mmv_3592 : minimaxL 4 [none, none, none, some X, some X, none, some O, some O, some X] O X = (some 0, 1) := by
  rw [minimaxL_succ 3 [none, none, none, some X, some X, none, some O, some O, some X] O X [0, 1, 2, 5] rfl rfl (List.cons_ne_nil _ _)]
  show pickBest [(0, (minimaxL 3 [some O, none, none, some X, some X, none, some O, some O, some X] X O).2), (1, (minimaxL 3 [none, some O, none, some X, some X, none, some O, some O, some X] X O).2), (2, (minimaxL 3 [none, none, some O, some X, some X, none, some O, some O, some X] X O).2), (5, (minimaxL 3 [none, none, none, some X, some X, some O, some O, some O, some X] X O).2)] O = (some 0, 1)
  rw [mmv_3290, mmv_3421, mmv_3502, mmv_3553]
  rfl

theorem mmv_3594 : minimaxL 3 [none, none, none, some X, some O, some X, some O, some O, some X] X O = (some 2, 1) := rfl

theorem mmv_3593 : minimaxL 4 [none, none, none, some X, none, some X, some O, some O, some X] O X = (some 0, 1) := by
  rw [minimaxL_succ 3 [none, none, none, some X, none, some X, some O, some O, some X] O X [0, 1, 2, 4] rfl rfl (List.cons_ne_nil _ _)]
  show pickBest [(0, (minimaxL 3 [some O, none, none, some X, none, some X, some O, some O, some X] X O).2), (1, (minimaxL 3 [none, some O, none, some X, none, some X, some O, some O, some X] X O).2), (2, (minimaxL 3 [none, none, some O, some X, none, some X, some O, some O, some X] X O).2), (4, (minimaxL 3 [none, none, none, some X, some O, some X, some O, some O, some X] X O).2)] O = (some 0, 1)
  rw [mmv_3294, mmv_3425, mmv_3512, mmv_3594]
  rfl

theorem mmv_3591 : minimaxL 5 [none, none, none, some X, none, none, some O, some O, some X] X O = (some 5, 1) := by
  rw [minimaxL_succ 4 [none, none, none, some X, none, none, some O, some O, some X] X O [0, 1, 2, 4, 5] rfl rfl (List.cons_ne_nil _ _)]
  show pickBest [(0, (minimaxL 4 [some X, none, none, some X, none, none, some O, some O, some X] O X).2), (1, (minimaxL 4 [none, some X, none, some X, none, none, some O, some O, some X] O X).2), (2, (minimaxL 4 [none, none, some X, some X, none, none, some O, some O, some X] O X).2), (4, (minimaxL 4 [none, none, none, some X, some X, none, some O, some O, some X] O X).2), (5, (minimaxL 4 [none, none, none, some X, none, some X, some O, some O, some X] O X).2)] X = (some 5, 1)
  rw [mmv_1159, mmv_2331, mmv_3072, mmv_3592, mmv_3593]
  rfl

theorem mmv_3590 : minimaxL 6 [none, none, none, some X, none, none, some O, none, some X] O X = (some 4, 0) := by
  rw [minimaxL_succ 5 [none, none, none, some X, none, none, some O, none, some X] O X [0, 1, 2, 4, 5, 7] rfl rfl (List.cons_ne_nil _ _)]
  show pickBest [(0, (minimaxL 5 [some O, none, none, some X, none, none, some O, none, some X] X O).2), (1, (minimaxL 5 [none, some O, none, some X, none, none, some O, none, some X] X O).2), (2, (minimaxL 5 [none, none, some O, some X, none, none, some O, none, some X] X O).2), (4, (minimaxL 5 [none, none, none, some X, some O, none, some O, none, some X] X O).2), (5, (minimaxL 5 [none, none, none, some X, none, some O, some O, none, some X] X O).2), (7, (minimaxL 5 [none, none, none, some X, none, none, some O, some O, some X] X O).2)] O = (some 4, 0)
  rw [mmv_3286, mmv_3418, mmv_3500, mmv_3544, mmv_3574, mmv_3591]
  rfl

theorem mmv_3578 : minimaxL 7 [none, none, none, some X, none, none, some O, none, none] X O = (some 8, 0) := by
  rw [minimaxL_succ 6 [none, none, none, some X, none, none, some O, none, none] X O [0, 1, 2, 4, 5, 7, 8] rfl rfl (List.cons_ne_nil _ _)]
  show pickBest [(0, (minimaxL 6 [some X, none, none, some X, none, none, some O, none, none] O X).2), (1, (minimaxL 6 [none, some X, none, some X, none, none, some O, none, none] O X).2), (2, (minimaxL 6 [none, none, some X, some X, none, none, some O, none, none] O X).2), (4, (minimaxL 6 [none, none, none, some X, some X, none, some O, none, none] O X).2), (5, (minimaxL 6 [none, none, none, some X, none, some X, some O, none, none] O X).2), (7, (minimaxL 6 [none, none, none, some X, none, none, some O, some X, none] O X).2), (8, (minimaxL 6 [none, none, none, some X, none, none, some O, none, some X] O X).2)] X = (some 8, 0)
  rw [mmv_1153, mmv_2326, mmv_3068, mmv_3579, mmv_3582, mmv_3585, mmv_3590]
  rfl

theorem mmv_3597 : minimaxL 5 [none, none, none, some X, some X, none, none, some O, some O] X O = (some 5, 1) := rfl

theorem mmv_3596 : minimaxL 6 [none, none, none, some X, some X, none, none, some O, none] O X = (some 0, 1) := by
  rw [minimaxL_succ 5 [none, none, none, some X, some X, none, none, some O, none] O X [0, 1, 2, 5, 6, 8] rfl rfl (List.cons_ne_nil _ _)]
  show pickBest [(0, (minimaxL 5 [some O, none, none, some X, some X, none, none, some O, none] X O).2), (1, (minimaxL 5 [none, some O, none, some X, some X, none, none, some O, none] X O).2), (2, (minimaxL 5 [none, none, some O, some X, some X, none, none, some O, none] X O).2), (5, (minimaxL 5 [none, none, none, some X, some X, some O, none, some O, none] X O).2), (6, (minimaxL 5 [none, none, none, some X, some X, none, some O, some O, none] X O).2), (8, (minimaxL 5 [none, none, none, some X, some X, none, none, some O, some O] X O).2)] O = (some 0, 1)
  rw [mmv_3162, mmv_3328, mmv_3442, mmv_3554, mmv_3580, mmv_3597]
  rfl

theorem mmv_3599 : minimaxL 5 [none, none, none, some X, none, some X, none, some O, some O] X O = (some 4, 1) := rfl

theorem mmv_3598 : minimaxL 6 [none, none, none, some X, none, some X, none, some O, none] O X = (some 4, -1) := by
  rw [minimaxL_succ 5 [none, none, none, some X, none, some X, none, some O, none] O X [0, 1, 2, 4, 6, 8] rfl rfl (List.cons_ne_nil _ _)]
  show pickBest [(0, (minimaxL 5 [some O, none, none, some X, none, some X, none, some O, none] X O).2), (1, (minimaxL 5 [none, some O, none, some X, none, some X, none, some O, none] X O).2), (2, (minimaxL 5 [none, none, some O, some X, none, some X, none, some O, none] X O).2), (4, (minimaxL 5 [none, none, none, some X, some O, some X, none, some O, none] X O).2), (6, (minimaxL 5 [none, none, none, some X, none, some X, some O, some O, none] X O).2), (8, (minimaxL 5 [none, none, none, some X, none, some X, none, some O, some O] X O).2)] O = (some 4, -1)
  rw [mmv_3178, mmv_3347, mmv_3455, mmv_3520, mmv_3583, mmv_3599]
  rfl

theorem mmv_3601 : minimaxL 5 [none, none, none, some X, none, none, some X, some O, some O] X O = (some 0, 1) := rfl

theorem mmv_3600 : minimaxL 6 [none, none, none, some X, none, none, some X, some O, none] O X = (some 0, 1) := by
  rw [minimaxL_succ 5 [none, none, none, some X, none, none, some X, some O, none] O X [0, 1, 2, 4, 5, 8] rfl rfl (List.cons_ne_nil _ _)]
  show pickBest [(0, (minimaxL 5 [some O, none, none, some X, none, none, some X, some O, none] X O).2), (1, (minimaxL 5 [none, some O, none, some X, none, none, some X, some O, none] X O).2), (2, (minimaxL 5 [none, none, some O, some X, none, none, some X, some O, none] X O).2), (4, (minimaxL 5 [none, none, none, some X, some O, none, some X, some O, none] X O).2), (5, (minimaxL 5 [none, none, none, some X, none, some O, some X, some O, none] X O).2), (8, (minimaxL 5 [none, none, none, some X, none, none, some X, some O, some O] X O).2)] O = (some 0, 1)
  rw [mmv_3210, mmv_3353, mmv_3460, mmv_3528, mmv_3566, mmv_3601]
  rfl

theorem mmv_3602 : minimaxL 6 [none, none, none, some X, none, none, none, some O, some X] O X = (some 4, 0) := by
  rw [minimaxL_succ 5 [none, none, none, some X, none, none, none, some O, some X] O X [0, 1, 2, 4, 5, 6] rfl rfl (List.cons_ne_nil _ _)]
  show pickBest [(0, (minimaxL 5 [some O, none, none, some X, none, none, none, some O, some X] X O).2), (1, (minimaxL 5 [none, some O, none, some X, none, none, none, some O, some X] X O).2), (2, (minimaxL 5 [none, none, some O, some X, none, none, none, some O, some X] X O).2), (4, (minimaxL 5 [none, none, none, some X, some O, none, none, some O, some X] X O).2), (5, (minimaxL 5 [none, none, none, some X, none, some O, none, some O, some X] X O).2), (6, (minimaxL 5 [none, none, none, some X, none, none, some O, some O, some X] X O).2)] O = (some 4, 0)
  rw [mmv_3295, mmv_3426, mmv_3504, mmv_3545, mmv_3575, mmv_3591]
  rfl

theorem mmv_3595 : minimaxL 7 [none, none, none, some X, none, none, none, some O, none] X O = (some 6, 1) := by
  rw [minimaxL_succ 6 [none, none, none, some X, none, none, none, some O, none] X O [0, 1, 2, 4, 5, 6, 8] rfl rfl (List.cons_ne_nil _ _)]
  show pickBest [(0, (minimaxL 6 [some X, none, none, some X, none, none, none, some O, none] O X).2), (1, (minimaxL 6 [none, some X, none, some X, none, none, none, some O, none] O X).2), (2, (minimaxL 6 [none, none, some X, some X, none, none, none, some O, none] O X).2), (4, (minimaxL 6 [none, none, none, some X, some X, none, none, some O, none] O X).2), (5, (minimaxL 6 [none, none, none, some X, none, some X, none, some O, none] O X).2), (6, (minimaxL 6 [none, none, none, some X, none, none, some X, some O, none] O X).2), (8, (minimaxL 6 [none, none, none, some X, none, none, none, some O, some X] O X).2)] X = (some 6, 1)
  rw [mmv_1204, mmv_2368, mmv_3102, mmv_3596, mmv_3598, mmv_3600, mmv_3602]
  rfl

theorem mmv_3604 : minimaxL 6 [none, none, none, some X, some X, none, none, none, some O] O X = (some 5, 0) := by
  rw [minimaxL_succ 5 [none, none, none, some X, some X, none, none, none, some O] O X [0, 1, 2, 5, 6, 7] rfl rfl (List.cons_ne_nil _ _)]
  show pickBest [(0, (minimaxL 5 [some O, none, none, some X, some X, none, none, none, some O] X O).2), (1, (minimaxL 5 [none, some O, none, some X, some X, none, none, none, some O] X O).2), (2, (minimaxL 5 [none, none, some O, some X, some X, none, none, none, some O] X O).2), (5, (minimaxL 5 [none, none, none, some X, some X, some O, none, none, some O] X O).2), (6, (minimaxL 5 [none, none, none, some X, some X, none, some O, none, some O] X O).2), (7, (minimaxL 5 [none, none, none, some X, some X, none, none, some O, some O] X O).2)] O = (some 5, 0)
  rw [mmv_3163, mmv_3329, mmv_3443, mmv_3562, mmv_3581, mmv_3597]
  rfl

theorem mmv_3605 : minimaxL 6 [none, none, none, some X, none, some X, none, none, some O] O X = (some 4, -1) := by
  rw [minimaxL_succ 5 [none, none, none, some X, none, some X, none, none, some O] O X [0, 1, 2, 4, 6, 7] rfl rfl (List.cons_ne_nil _ _)]
  show pickBest [(0, (minimaxL 5 [some O, none, none, some X, none, some X, none, none, some O] X O).2), (1, (minimaxL 5 [none, some O, none, some X, none, some X, none, none, some O] X O).2), (2, (minimaxL 5 [none, none, some O, some X, none, some X, none, none, some O] X O).2), (4, (minimaxL 5 [none, none, none, some X, some O, some X, none, none, some O] X O).2), (6, (minimaxL 5 [none, none, none, some X, none, some X, some O, none, some O] X O).2), (7, (minimaxL 5 [none, none, none, some X, none, some X, none, some O, some O] X O).2)] O = (some 4, -1)
  rw [mmv_3179, mmv_3348, mmv_3456, mmv_3523, mmv_3584, mmv_3599]
  rfl

theorem mmv_3606 : minimaxL 6 [none, none, none, some X, none, none, some X, none, some O] O X = (some 0, 1) := by
  rw [minimaxL_succ 5 [none, none, none, some X, none, none, some X, none, some O] O X [0, 1, 2, 4, 5, 7] rfl rfl (List.cons_ne_nil _ _)]
  show pickBest [(0, (minimaxL 5 [some O, none, none, some X, none, none, some X, none, some O] X O).2), (1, (minimaxL 5 [none, some O, none, some X, none, none, some X, none, some O] X O).2), (2, (minimaxL 5 [none, none, some O, some X, none, none, some X, none, some O] X O).2), (4, (minimaxL 5 [none, none, none, some X, some O, none, some X, none, some O] X O).2), (5, (minimaxL 5 [none, none, none, some X, none, some O, some X, none, some O] X O).2), (7, (minimaxL 5 [none, none, none, some X, none, none, some X, some O, some O] X O).2)] O = (some 0, 1)
  rw [mmv_3228, mmv_3354, mmv_3461, mmv_3529, mmv_3567, mmv_3601]
  rfl

theorem mmv_3607 : minimaxL 6 [none, none, none, some X, none, none, none, some X, some O] O X = (some 2, -1) := by
  rw [minimaxL_succ 5 [none, none, none, some X, none, none, none, some X, some O] O X [0, 1, 2, 4, 5, 6] rfl rfl (List.cons_ne_nil _ _)]
  show pickBest [(0, (minimaxL 5 [some O, none, none, some X, none, none, none, some X, some O] X O).2), (1, (minimaxL 5 [none, some O, none, some X, none, none, none, some X, some O] X O).2), (2, (minimaxL 5 [none, none, some O, some X, none, none, none, some X, some O] X O).2), (4, (minimaxL 5 [none, none, none, some X, some O, none, none, some X, some O] X O).2), (5, (minimaxL 5 [none, none, none, some X, none, some O, none, some X, some O] X O).2), (6, (minimaxL 5 [none, none, none, some X, none, none, some O, some X, some O] X O).2)] O = (some 2, -1)
  rw [mmv_3272, mmv_3389, mmv_3481, mmv_3538, mmv_3571, mmv_3586]
  rfl

theorem mmv_3603 : minimaxL 7 [none, none, none, some X, none, none, none, none, some O] X O = (some 6, 1) := by
  rw [minimaxL_succ 6 [none, none, none, some X, none, none, none, none, some O] X O [0, 1, 2, 4, 5, 6, 7] rfl rfl (List.cons_ne_nil _ _)]
  show pickBest [(0, (minimaxL 6 [some X, none, none, some X, none, none, none, none, some O] O X).2), (1, (minimaxL 6 [none, some X, none, some X, none, none, none, none, some O] O X).2), (2, (minimaxL 6 [none, none, some X, some X, none, none, none, none, some O] O X).2), (4, (minimaxL 6 [none, none, none, some X, some X, none, none, none, some O] O X).2), (5, (minimaxL 6 [none, none, none, some X, none, some X, none, none, some O] O X).2), (6, (minimaxL 6 [none, none, none, some X, none, none, some X, none, some O] O X).2), (7, (minimaxL 6 [none, none, none, some X, none, none, none, some X, some O] O X).2)] X = (some 6, 1)
  rw [mmv_1227, mmv_2391, mmv_3123, mmv_3604, mmv_3605, mmv_3606, mmv_3607]
  rfl

theorem mmv_3128 : minimaxL 8 [none, none, none, some X, none, none, none, none, none] O X = (some 0, 0) := by
  rw [minimaxL_succ 7 [none, none, none, some X, none, none, none, none, none] O X [0, 1, 2, 4, 5, 6, 7, 8] rfl rfl (List.cons_ne_nil _ _)]
  show pickBest [(0, (minimaxL 7 [some O, none, none, some X, none, none, none, none, none] X O).2), (1, (minimaxL 7 [none, some O, none, some X, none, none, none, none, none] X O).2), (2, (minimaxL 7 [none, none, some O, some X, none, none, none, none, none] X O).2), (4, (minimaxL 7 [none, none, none, some X, some O, none, none, none, none] X O).2), (5, (minimaxL 7 [none, none, none, some X, none, some O, none, none, none] X O).2), (6, (minimaxL 7 [none, none, none, some X, none, none, some O, none, none] X O).2), (7, (minimaxL 7 [none, none, none, some X, none, none, none, some O, none] X O).2), (8, (minimaxL 7 [none, none, none, some X, none, none, none, none, some O] X O).2)] O = (some 0, 0)
  rw [mmv_3129, mmv_3302, mmv_3432, mmv_3515, mmv_3547, mmv_3578, mmv_3595, mmv_3603]
  rfl

theorem mmv_3611 : minimaxL 5 [some O, some O, none, none, some X, some X, none, none, none] X O = (some 3, 1) := rfl

theorem mmv_3612 : minimaxL 5 [some O, none, some O, none, some X, some X, none, none, none] X O = (some 3, 1) := rfl

theorem mmv_3614 : minimaxL 4 [some O, none, some X, some O, some X, some X, none, none, none] O X = (some 6, -1) := rfl

theorem mmv_3616 : minimaxL 3 [some O, some O, none, some O, some X, some X, some X, none, none] X O = (some 2, 1) := rfl

theorem mmv_3618 : minimaxL 2 [some O, none, some O, some O, some X, some X, some X, some X, none] O X = (some 1, -1) := rfl

theorem mmv_3619 : minimaxL 2 [some O, none, some O, some O, some X, some X, some X, none, some X] O X = (some 1, -1) := rfl

theorem mmv_3617 : minimaxL 3 [some O, none, some O, some O, some X, some X, some X, none, none] X O = (some 1, 0) := by
  rw [minimaxL_succ 2 [some O, none, some O, some O, some X, some X, some X, none, none] X O [1, 7, 8] rfl rfl (List.cons_ne_nil _ _)]
  show pickBest [(1, (minimaxL 2 [some O, some X, some O, some O, some X, some X, some X, none, none] O X).2), (7, (minimaxL 2 [some O, none, some O, some O, some X, some X, some X, some X, none] O X).2), (8, (minimaxL 2 [some O, none, some O, some O, some X, some X, some X, none, some X] O X).2)] X = (some 1, 0)
  rw [mmv_1571, mmv_3618, mmv_3619]
  rfl

theorem mmv_3620 : minimaxL 3 [some O, none, none, some O, some X, some X, some X, some O, none] X O = (some 2, 1) := rfl

theorem mmv_3621 : minimaxL 3 [some O, none, none, some O, some X, some X, some X, none, some O] X O = (some 2, 1) := rfl

theorem mmv_3615 : minimaxL 4 [some O, none, none, some O, some X, some X, some X, none, none] O X = (some 2, 0) := by
  rw [minimaxL_succ 3 [some O, none, none, some O, some X, some X, some X, none, none] O X [1, 2, 7, 8] rfl rfl (List.cons_ne_nil _ _)]
  show pickBest [(1, (minimaxL 3 [some O, some O, none, some O, some X, some X, some X, none, none] X O).2), (2, (minimaxL 3 [some O, none, some O, some O, some X, some X, some X, none, none] X O).2), (7, (minimaxL 3 [some O, none, none, some O, some X, some X, some X, some O, none] X O).2), (8, (minimaxL 3 [some O, none, none, some O, some X, some X, some X, none, some O] X O).2)] O = (some 2, 0)
  rw [mmv_3616, mmv_3617, mmv_3620, mmv_3621]
  rfl

theorem mmv_3622 : minimaxL 4 [some O, none, none, some O, some X, some X, none, some X, none] O X = (some 6, -1) := rfl

theorem mmv_3623 : minimaxL 4 [some O, none, none, some O, some X, some X, none, none, some X] O X = (some 6, -1) := rfl

theorem mmv_3613 : minimaxL 5 [some O, none, none, some O, some X, some X, none, none, none] X O = (some 6, 0) := by
  rw [minimaxL_succ 4 [some O, none, none, some O, some X, some X, none, none, none] X O [1, 2, 6, 7, 8] rfl rfl (List.cons_ne_nil _ _)]
  show pickBest [(1, (minimaxL 4 [some O, some X, none, some O, some X, some X, none, none, none] O X).2), (2, (minimaxL 4 [some O, none, some X, some O, some X, some X, none, none, none] O X).2), (6, (minimaxL 4 [some O, none, none, some O, some X, some X, some X, none, none] O X).2), (7, (minimaxL 4 [some O, none, none, some O, some X, some X, none, some X, none] O X).2), (8, (minimaxL 4 [some O, none, none, some O, some X, some X, none, none, some X] O X).2)] X = (some 6, 0)
  rw [mmv_1604, mmv_3614, mmv_3615, mmv_3622, mmv_3623]
  rfl

theorem mmv_3624 : minimaxL 5 [some O, none, none, none, some X, some X, some O, none, none] X O = (some 3, 1) := rfl

theorem mmv_3625 : minimaxL 5 [some O, none, none, none, some X, some X, none, some O, none] X O = (some 3, 1) := rfl

theorem mmv_3626 : minimaxL 5 [some O, none, none, none, some X, some X, none, none, some O] X O = (some 3, 1) := rfl

theorem mmv_3610 : minimaxL 6 [some O, none, none, none, some X, some X, none, none, none] O X = (some 3, 0) := by
  rw [minimaxL_succ 5 [some O, none, none, none, some X, some X, none, none, none] O X [1, 2, 3, 6, 7, 8] rfl rfl (List.cons_ne_nil _ _)]
  show pickBest [(1, (minimaxL 5 [some O, some O, none, none, some X, some X, none, none, none] X O).2), (2, (minimaxL 5 [some O, none, some O, none, some X, some X, none, none, none] X O).2), (3, (minimaxL 5 [some O, none, none, some O, some X, some X, none, none, none] X O).2), (6, (minimaxL 5 [some O, none, none, none, some X, some X, some O, none, none] X O).2), (7, (minimaxL 5 [some O, none, none, none, some X, some X, none, some O, none] X O).2), (8, (minimaxL 5 [some O, none, none, none, some X, some X, none, none, some O] X O).2)] O = (some 3, 0)
  rw [mmv_3611, mmv_3612, mmv_3613, mmv_3624, mmv_3625, mmv_3626]
  rfl

theorem mmv_3628 : minimaxL 5 [some O, some O, none, none, some X, none, some X, none, none] X O = (some 2, 1) := rfl

theorem mmv_3630 : minimaxL 4 [some O, none, some O, none, some X, some X, some X, none, none] O X = (some 1, -1) := rfl

theorem mmv_3631 : minimaxL 4 [some O, none, some O, none, some X, none, some X, some X, none] O X = (some 1, -1) := rfl

theorem mmv_3632 : minimaxL 4 [some O, none, some O, none, some X, none, some X, none, some X] O X = (some 1, -1) := rfl

theorem mmv_3629 : minimaxL 5 [some O, none, some O, none, some X, none, some X, none, none] X O = (some 1, 0) := by
  rw [minimaxL_succ 4 [some O, none, some O, none, some X, none, some X, none, none] X O [1, 3, 5, 7, 8] rfl rfl (List.cons_ne_nil _ _)]
  show pickBest [(1, (minimaxL 4 [some O, some X, some O, none, some X, none, some X, none, none] O X).2), (3, (minimaxL 4 [some O, none, some O, some X, some X, none, some X, none, none] O X).2), (5, (minimaxL 4 [some O, none, some O, none, some X, some X, some X, none, none] O X).2), (7, (minimaxL 4 [some O, none, some O, none, some X, none, some X, some X, none] O X).2), (8, (minimaxL 4 [some O, none, some O, none, some X, none, some X, none, some X] O X).2)] X = (some 1, 0)
  rw [mmv_1649, mmv_3187, mmv_3630, mmv_3631, mmv_3632]
  rfl

theorem mmv_3633 : minimaxL 5 [some O, none, none, some O, some X, none, some X, none, none] X O = (some 2, 1) := rfl

theorem mmv_3634 : minimaxL 5 [some O, none, none, none, some X, some O, some X, none, none] X O = (some 2, 1) := rfl

theorem mmv_3635 : minimaxL 5 [some O, none, none, none, some X, none, some X, some O, none] X O = (some 2, 1) := rfl

theorem mmv_3636 : minimaxL 5 [some O, none, none, none, some X, none, some X, none, some O] X O = (some 2, 1) := rfl

theorem mmv_3627 : minimaxL 6 [some O, none, none, none, some X, none, some X, none, none] O X = (some 2, 0) := by
  rw [minimaxL_succ 5 [some O, none, none, none, some X, none, some X, none, none] O X [1, 2, 3, 5, 7, 8] rfl rfl (List.cons_ne_nil _ _)]
  show pickBest [(1, (minimaxL 5 [some O, some O, none, none, some X, none, some X, none, none] X O).2), (2, (minimaxL 5 [some O, none, some O, none, some X, none, some X, none, none] X O).2), (3, (minimaxL 5 [some O, none, none, some O, some X, none, some X, none, none] X O).2), (5, (minimaxL 5 [some O, none, none, none, some X, some O, some X, none, none] X O).2), (7, (minimaxL 5 [some O, none, none, none, some X, none, some X, some O, none] X O).2), (8, (minimaxL 5 [some O, none, none, none, some X, none, some X, none, some O] X O).2)] O = (some 2, 0)
  rw [mmv_3628, mmv_3629, mmv_3633, mmv_3634, mmv_3635, mmv_3636]
  rfl

theorem mmv_3639 : minimaxL 4 [some O, some O, none, none, some X, some X, none, some X, none] O X = (some 2, -1) := rfl

theorem mmv_3640 : minimaxL 4 [some O, some O, none, none, some X, none, some X, some X, none] O X = (some 2, -1) := rfl

theorem mmv_3641 : minimaxL 4 [some O, some O, none, none, some X, none, none, some X, some X] O X = (some 2, -1) := rfl

theorem mmv_3638 : minimaxL 5 [some O, some O, none, none, some X, none, none, some X, none] X O = (some 2, 0) := by
  rw [minimaxL_succ 4 [some O, some O, none, none, some X, none, none, some X, none] X O [2, 3, 5, 6, 8] rfl rfl (List.cons_ne_nil _ _)]
  show pickBest [(2, (minimaxL 4 [some O, some O, some X, none, some X, none, none, some X, none] O X).2), (3, (minimaxL 4 [some O, some O, none, some X, some X, none, none, some X, none] O X).2), (5, (minimaxL 4 [some O, some O, none, none, some X, some X, none, some X, none] O X).2), (6, (minimaxL 4 [some O, some O, none, none, some X, none, some X, some X, none] O X).2), (8, (minimaxL 4 [some O, some O, none, none, some X, none, none, some X, some X] O X).2)] X = (some 2, 0)
  rw [mmv_2568, mmv_3236, mmv_3639, mmv_3640, mmv_3641]
  rfl

theorem mmv_3642 : minimaxL 5 [some O, none, some O, none, some X, none, none, some X, none] X O = (some 1, 1) := rfl

theorem mmv_3643 : minimaxL 5 [some O, none, none, some O, some X, none, none, some X, none] X O = (some 1, 1) := rfl

theorem mmv_3644 : minimaxL 5 [some O, none, none, none, some X, some O, none, some X, none] X O = (some 1, 1) := rfl

theorem mmv_3645 : minimaxL 5 [some O, none, none, none, some X, none, some O, some X, none] X O = (some 1, 1) := rfl

theorem mmv_3646 : minimaxL 5 [some O, none, none, none, some X, none, none, some X, some O] X O = (some 1, 1) := rfl

theorem mmv_3637 : minimaxL 6 [some O, none, none, none, some X, none, none, some X, none] O X = (some 1, 0) := by
  rw [minimaxL_succ 5 [some O, none, none, none, some X, none, none, some X, none] O X [1, 2, 3, 5, 6, 8] rfl rfl (List.cons_ne_nil _ _)]
  show pickBest [(1, (minimaxL 5 [some O, some O, none, none, some X, none, none, some X, none] X O).2), (2, (minimaxL 5 [some O, none, some O, none, some X, none, none, some X, none] X O).2), (3, (minimaxL 5 [some O, none, none, some O, some X, none, none, some X, none] X O).2), (5, (minimaxL 5 [some O, none, none, none, some X, some O, none, some X, none] X O).2), (6, (minimaxL 5 [some O, none, none, none, some X, none, some O, some X, none] X O).2), (8, (minimaxL 5 [some O, none, none, none, some X, none, none, some X, some O] X O).2)] O = (some 1, 0)
  rw [mmv_3638, mmv_3642, mmv_3643, mmv_3644, mmv_3645, mmv_3646]
  rfl

theorem mmv_3650 : minimaxL 3 [some O, some O, some X, some O, some X, none, none, none, some X] X O = (some 6, 1) := rfl

theorem mmv_3651 : minimaxL 3 [some O, some O, some X, none, some X, none, none, some O, some X] X O = (some 6, 1) := rfl

theorem mmv_3649 : minimaxL 4 [some O, some O, some X, none, some X, none, none, none, some X] O X = (some 3, 1) := by
  rw [minimaxL_succ 3 [some O, some O, some X, none, some X, none, none, none, some X] O X [3, 5, 6, 7] rfl rfl (List.cons_ne_nil _ _)]
  show pickBest [(3, (minimaxL 3 [some O, some O, some X, some O, some X, none, none, none, some X] X O).2), (5, (minimaxL 3 [some O, some O, some X, none, some X, some O, none, none, some X] X O).2), (6, (minimaxL 3 [some O, some O, some X, none, some X, none, some O, none, some X] X O).2), (7, (minimaxL 3 [some O, some O, some X, none, some X, none, none, some O, some X] X O).2)] O = (some 3, 1)
  rw [mmv_3650, mmv_2634, mmv_2742, mmv_3651]
  rfl

theorem mmv_3652 : minimaxL 4 [some O, some O, none, none, some X, some X, none, none, some X] O X = (some 2, -1) := rfl

theorem mmv_3653 : minimaxL 4 [some O, some O, none, none, some X, none, some X, none, some X] O X = (some 2, -1) := rfl

theorem mmv_3648 : minimaxL 5 [some O, some O, none, none, some X, none, none, none, some X] X O = (some 2, 1) := by
  rw [minimaxL_succ 4 [some O, some O, none, none, some X, none, none, none, some X] X O [2, 3, 5, 6, 7] rfl rfl (List.cons_ne_nil _ _)]
  show pickBest [(2, (minimaxL 4 [some O, some O, some X, none, some X, none, none, none, some X] O X).2), (3, (minimaxL 4 [some O, some O, none, some X, some X, none, none, none, some X] O X).2), (5, (minimaxL 4 [some O, some O, none, none, some X, some X, none, none, some X] O X).2), (6, (minimaxL 4 [some O, some O, none, none, some X, none, some X, none, some X] O X).2), (7, (minimaxL 4 [some O, some O, none, none, some X, none, none, some X, some X] O X).2)] X = (some 2, 1)
  rw [mmv_3649, mmv_3279, mmv_3652, mmv_3653, mmv_3641]
  rfl

theorem mmv_3655 : minimaxL 4 [some O, none, some O, none, some X, some X, none, none, some X] O X = (some 1, -1) := rfl

theorem mmv_3656 : minimaxL 4 [some O, none, some O, none, some X, none, none, some X, some X] O X = (some 1, -1) := rfl

theorem mmv_3654 : minimaxL 5 [some O, none, some O, none, some X, none, none, none, some X] X O = (some 1, 0) := by
  rw [minimaxL_succ 4 [some O, none, some O, none, some X, none, none, none, some X] X O [1, 3, 5, 6, 7] rfl rfl (List.cons_ne_nil _ _)]
  show pickBest [(1, (minimaxL 4 [some O, some X, some O, none, some X, none, none, none, some X] O X).2), (3, (minimaxL 4 [some O, none, some O, some X, some X, none, none, none, some X] O X).2), (5, (minimaxL 4 [some O, none, some O, none, some X, some X, none, none, some X] O X).2), (6, (minimaxL 4 [some O, none, some O, none, some X, none, some X, none, some X] O X).2), (7, (minimaxL 4 [some O, none, some O, none, some X, none, none, some X, some X] O X).2)] X = (some 1, 0)
  rw [mmv_1710, mmv_3282, mmv_3655, mmv_3632, mmv_3656]
  rfl

theorem mmv_3658 : minimaxL 4 [some O, none, some X, some O, some X, none, none, none, some X] O X = (some 6, -1) := rfl

theorem mmv_3660 : minimaxL 3 [some O, some O, none, some O, some X, none, some X, none, some X] X O = (some 2, 1) := rfl

theorem mmv_3661 : minimaxL 3 [some O, none, some O, some O, some X, none, some X, none, some X] X O = (some 7, 1) := rfl

theorem mmv_3662 : minimaxL 3 [some O, none, none, some O, some X, some O, some X, none, some X] X O = (some 2, 1) := rfl

theorem mmv_3663 : minimaxL 3 [some O, none, none, some O, some X, none, some X, some O, some X] X O = (some 2, 1) := rfl

theorem mmv_3659 : minimaxL 4 [some O, none, none, some O, some X, none, some X, none, some X] O X = (some 1, 1) := by
  rw [minimaxL_succ 3 [some O, none, none, some O, some X, none, some X, none, some X] O X [1, 2, 5, 7] rfl rfl (List.cons_ne_nil _ _)]
  show pickBest [(1, (minimaxL 3 [some O, some O, none, some O, some X, none, some X, none, some X] X O).2), (2, (minimaxL 3 [some O, none, some O, some O, some X, none, some X, none, some X] X O).2), (5, (minimaxL 3 [some O, none, none, some O, some X, some O, some X, none, some X] X O).2), (7, (minimaxL 3 [some O, none, none, some O, some X, none, some X, some O, some X] X O).2)] O = (some 1, 1)
  rw [mmv_3660, mmv_3661, mmv_3662, mmv_3663]
  rfl

theorem mmv_3664 : minimaxL 4 [some O, none, none, some O, some X, none, none, some X, some X] O X = (some 6, -1) := rfl

theorem mmv_3657 : minimaxL 5 [some O, none, none, some O, some X, none, none, none, some X] X O = (some 6, 1) := by
  rw [minimaxL_succ 4 [some O, none, none, some O, some X, none, none, none, some X] X O [1, 2, 5, 6, 7] rfl rfl (List.cons_ne_nil _ _)]
  show pickBest [(1, (minimaxL 4 [some O, some X, none, some O, some X, none, none, none, some X] O X).2), (2, (minimaxL 4 [some O, none, some X, some O, some X, none, none, none, some X] O X).2), (5, (minimaxL 4 [some O, none, none, some O, some X, some X, none, none, some X] O X).2), (6, (minimaxL 4 [some O, none, none, some O, some X, none, some X, none, some X] O X).2), (7, (minimaxL 4 [some O, none, none, some O, some X, none, none, some X, some X] O X).2)] X = (some 6, 1)
  rw [mmv_1719, mmv_3658, mmv_3623, mmv_3659, mmv_3664]
  rfl

theorem mmv_3667 : minimaxL 3 [some O, some O, none, none, some X, some O, some X, none, some X] X O = (some 2, 1) := rfl

theorem mmv_3668 : minimaxL 3 [some O, none, some O, none, some X, some O, some X, none, some X] X O = (some 7, 1) := rfl

theorem mmv_3669 : minimaxL 3 [some O, none, none, none, some X, some O, some X, some O, some X] X O = (some 2, 1) := rfl

theorem mmv_3666 : minimaxL 4 [some O, none, none, none, some X, some O, some X, none, some X] O X = (some 1, 1) := by
  rw [minimaxL_succ 3 [some O, none, none, none, some X, some O, some X, none, some X] O X [1, 2, 3, 7] rfl rfl (List.cons_ne_nil _ _)]
  show pickBest [(1, (minimaxL 3 [some O, some O, none, none, some X, some O, some X, none, some X] X O).2), (2, (minimaxL 3 [some O, none, some O, none, some X, some O, some X, none, some X] X O).2), (3, (minimaxL 3 [some O, none, none, some O, some X, some O, some X, none, some X] X O).2), (7, (minimaxL 3 [some O, none, none, none, some X, some O, some X, some O, some X] X O).2)] O = (some 1, 1)
  rw [mmv_3667, mmv_3668, mmv_3662, mmv_3669]
  rfl

theorem mmv_3671 : minimaxL 3 [some O, some O, none, none, some X, some O, none, some X, some X] X O = (some 6, 1) := rfl

theorem mmv_3672 : minimaxL 3 [some O, none, some O, none, some X, some O, none, some X, some X] X O = (some 1, 1) := rfl

theorem mmv_3673 : minimaxL 3 [some O, none, none, some O, some X, some O, none, some X, some X] X O = (some 1, 1) := rfl

theorem mmv_3674 : minimaxL 3 [some O, none, none, none, some X, some O, some O, some X, some X] X O = (some 1, 1) := rfl

theorem mmv_3670 : minimaxL 4 [some O, none, none, none, some X, some O, none, some X, some X] O X = (some 1, 1) := by
  rw [minimaxL_succ 3 [some O, none, none, none, some X, some O, none, some X, some X] O X [1, 2, 3, 6] rfl rfl (List.cons_ne_nil _ _)]
  show pickBest [(1, (minimaxL 3 [some O, some O, none, none, some X, some O, none, some X, some X] X O).2), (2, (minimaxL 3 [some O, none, some O, none, some X, some O, none, some X, some X] X O).2), (3, (minimaxL 3 [some O, none, none, some O, some X, some O, none, some X, some X] X O).2), (6, (minimaxL 3 [some O, none, none, none, some X, some O, some O, some X, some X] X O).2)] O = (some 1, 1)
  rw [mmv_3671, mmv_3672, mmv_3673, mmv_3674]
  rfl

theorem mmv_3665 : minimaxL 5 [some O, none, none, none, some X, some O, none, none, some X] X O = (some 7, 1) := by
  rw [minimaxL_succ 4 [some O, none, none, none, some X, some O, none, none, some X] X O [1, 2, 3, 6, 7] rfl rfl (List.cons_ne_nil _ _)]
  show pickBest [(1, (minimaxL 4 [some O, some X, none, none, some X, some O, none, none, some X] O X).2), (2, (minimaxL 4 [some O, none, some X, none, some X, some O, none, none, some X] O X).2), (3, (minimaxL 4 [some O, none, none, some X, some X, some O, none, none, some X] O X).2), (6, (minimaxL 4 [some O, none, none, none, some X, some O, some X, none, some X] O X).2), (7, (minimaxL 4 [some O, none, none, none, some X, some O, none, some X, some X] O X).2)] X = (some 7, 1)
  rw [mmv_1723, mmv_2633, mmv_3148, mmv_3666, mmv_3670]
  rfl

theorem mmv_3676 : minimaxL 4 [some O, none, none, none, some X, some X, some O, none, some X] O X = (some 3, -1) := rfl

theorem mmv_3677 : minimaxL 4 [some O, none, none, none, some X, none, some O, some X, some X] O X = (some 3, -1) := rfl

theorem mmv_3675 : minimaxL 5 [some O, none, none, none, some X, none, some O, none, some X] X O = (some 3, 0) := by
  rw [minimaxL_succ 4 [some O, none, none, none, some X, none, some O, none, some X] X O [1, 2, 3, 5, 7] rfl rfl (List.cons_ne_nil _ _)]
  show pickBest [(1, (minimaxL 4 [some O, some X, none, none, some X, none, some O, none, some X] O X).2), (2, (minimaxL 4 [some O, none, some X, none, some X, none, some O, none, some X] O X).2), (3, (minimaxL 4 [some O, none, none, some X, some X, none, some O, none, some X] O X).2), (5, (minimaxL 4 [some O, none, none, none, some X, some X, some O, none, some X] O X).2), (7, (minimaxL 4 [some O, none, none, none, some X, none, some O, some X, some X] O X).2)] X = (some 3, 0)
  rw [mmv_1730, mmv_2535, mmv_3287, mmv_3676, mmv_3677]
  rfl

theorem mmv_3680 : minimaxL 3 [some O, none, some X, some O, some X, none, none, some O, some X] X O = (some 6, 1) := rfl

theorem mmv_3679 : minimaxL 4 [some O, none, some X, none, some X, none, none, some O, some X] O X = (some 1, 1) := by
  rw [minimaxL_succ 3 [some O, none, some X, none, some X, none, none, some O, some X] O X [1, 3, 5, 6] rfl rfl (List.cons_ne_nil _ _)]
  show pickBest [(1, (minimaxL 3 [some O, some O, some X, none, some X, none, none, some O, some X] X O).2), (3, (minimaxL 3 [some O, none, some X, some O, some X, none, none, some O, some X] X O).2), (5, (minimaxL 3 [some O, none, some X, none, some X, some O, none, some O, some X] X O).2), (6, (minimaxL 3 [some O, none, some X, none, some X, none, some O, some O, some X] X O).2)] O = (some 1, 1)
  rw [mmv_3651, mmv_3680, mmv_2637, mmv_3082]
  rfl

theorem mmv_3682 : minimaxL 3 [some O, some O, none, none, some X, some X, none, some O, some X] X O = (some 3, 1) := rfl

theorem mmv_3683 : minimaxL 3 [some O, none, some O, none, some X, some X, none, some O, some X] X O = (some 3, 1) := rfl

theorem mmv_3684 : minimaxL 3 [some O, none, none, some O, some X, some X, none, some O, some X] X O = (some 2, 1) := rfl

theorem mmv_3685 : minimaxL 3 [some O, none, none, none, some X, some X, some O, some O, some X] X O = (some 3, 1) := rfl

theorem mmv_3681 : minimaxL 4 [some O, none, none, none, some X, some X, none, some O, some X] O X = (some 1, 1) := by
  rw [minimaxL_succ 3 [some O, none, none, none, some X, some X, none, some O, some X] O X [1, 2, 3, 6] rfl rfl (List.cons_ne_nil _ _)]
  show pickBest [(1, (minimaxL 3 [some O, some O, none, none, some X, some X, none, some O, some X] X O).2), (2, (minimaxL 3 [some O, none, some O, none, some X, some X, none, some O, some X] X O).2), (3, (minimaxL 3 [some O, none, none, some O, some X, some X, none, some O, some X] X O).2), (6, (minimaxL 3 [some O, none, none, none, some X, some X, some O, some O, some X] X O).2)] O = (some 1, 1)
  rw [mmv_3682, mmv_3683, mmv_3684, mmv_3685]
  rfl

theorem mmv_3687 : minimaxL 3 [some O, some O, none, none, some X, none, some X, some O, some X] X O = (some 2, 1) := rfl

theorem mmv_3689 : minimaxL 2 [some O, none, some O, none, some X, some X, some X, some O, some X] O X = (some 1, -1) := rfl

theorem mmv_3688 : minimaxL 3 [some O, none, some O, none, some X, none, some X, some O, some X] X O = (some 1, 0) := by
  rw [minimaxL_succ 2 [some O, none, some O, none, some X, none, some X, some O, some X] X O [1, 3, 5] rfl rfl (List.cons_ne_nil _ _)]
  show pickBest [(1, (minimaxL 2 [some O, some X, some O, none, some X, none, some X, some O, some X] O X).2), (3, (minimaxL 2 [some O, none, some O, some X, some X, none, some X, some O, some X] O X).2), (5, (minimaxL 2 [some O, none, some O, none, some X, some X, some X, some O, some X] O X).2)] X = (some 1, 0)
  rw [mmv_1543, mmv_3226, mmv_3689]
  rfl

theorem mmv_3686 : minimaxL 4 [some O, none, none, none, some X, none, some X, some O, some X] O X = (some 2, 0) := by
  rw [minimaxL_succ 3 [some O, none, none, none, some X, none, some X, some O, some X] O X [1, 2, 3, 5] rfl rfl (List.cons_ne_nil _ _)]
  show pickBest [(1, (minimaxL 3 [some O, some O, none, none, some X, none, some X, some O, some X] X O).2), (2, (minimaxL 3 [some O, none, some O, none, some X, none, some X, some O, some X] X O).2), (3, (minimaxL 3 [some O, none, none, some O, some X, none, some X, some O, some X] X O).2), (5, (minimaxL 3 [some O, none, none, none, some X, some O, some X, some O, some X] X O).2)] O = (some 2, 0)
  rw [mmv_3687, mmv_3688, mmv_3663, mmv_3669]
  rfl

theorem mmv_3678 : minimaxL 5 [some O, none, none, none, some X, none, none, some O, some X] X O = (some 5, 1) := by
  rw [minimaxL_succ 4 [some O, none, none, none, some X, none, none, some O, some X] X O [1, 2, 3, 5, 6] rfl rfl (List.cons_ne_nil _ _)]
  show pickBest [(1, (minimaxL 4 [some O, some X, none, none, some X, none, none, some O, some X] O X).2), (2, (minimaxL 4 [some O, none, some X, none, some X, none, none, some O, some X] O X).2), (3, (minimaxL 4 [some O, none, none, some X, some X, none, none, some O, some X] O X).2), (5, (minimaxL 4 [some O, none, none, none, some X, some X, none, some O, some X] O X).2), (6, (minimaxL 4 [some O, none, none, none, some X, none, some X, some O, some X] O X).2)] X = (some 5, 1)
  rw [mmv_1549, mmv_3679, mmv_3296, mmv_3681, mmv_3686]
  rfl

theorem mmv_3647 : minimaxL 6 [some O, none, none, none, some X, none, none, none, some X] O X = (some 2, 0) := by
  rw [minimaxL_succ 5 [some O, none, none, none, some X, none, none, none, some X] O X [1, 2, 3, 5, 6, 7] rfl rfl (List.cons_ne_nil _ _)]
  show pickBest [(1, (minimaxL 5 [some O, some O, none, none, some X, none, none, none, some X] X O).2), (2, (minimaxL 5 [some O, none, some O, none, some X, none, none, none, some X] X O).2), (3, (minimaxL 5 [some O, none, none, some O, some X, none, none, none, some X] X O).2), (5, (minimaxL 5 [some O, none, none, none, some X, some O, none, none, some X] X O).2), (6, (minimaxL 5 [some O, none, none, none, some X, none, some O, none, some X] X O).2), (7, (minimaxL 5 [some O, none, none, none, some X, none, none, some O, some X] X O).2)] O = (some 2, 0)
  rw [mmv_3648, mmv_3654, mmv_3657, mmv_3665, mmv_3675, mmv_3678]
  rfl

theorem mmv_3609 : minimaxL 7 [some O, none, none, none, some X, none, none, none, none] X O = (some 8, 0) := by
  rw [minimaxL_succ 6 [some O, none, none, none, some X, none, none, none, none] X O [1, 2, 3, 5, 6, 7, 8] rfl rfl (List.cons_ne_nil _ _)]
  show pickBest [(1, (minimaxL 6 [some O, some X, none, none, some X, none, none, none, none] O X).2), (2, (minimaxL 6 [some O, none, some X, none, some X, none, none, none, none] O X).2), (3, (minimaxL 6 [some O, none, none, some X, some X, none, none, none, none] O X).2), (5, (minimaxL 6 [some O, none, none, none, some X, some X, none, none, none] O X).2), (6, (minimaxL 6 [some O, none, none, none, some X, none, some X, none, none] O X).2), (7, (minimaxL 6 [some O, none, none, none, some X, none, none, some X, none] O X).2), (8, (minimaxL 6 [some O, none, none, none, some X, none, none, none, some X] O X).2)] X = (some 8, 0)
  rw [mmv_1522, mmv_2528, mmv_3130, mmv_3610, mmv_3627, mmv_3637, mmv_3647]
  rfl

theorem mmv_3692 : minimaxL 5 [none, some O, some O, none, some X, some X, none, none, none] X O = (some 3, 1) := rfl

theorem mmv_3695 : minimaxL 3 [some O, some O, some X, some O, some X, some X, none, none, none] X O = (some 6, 1) := rfl

theorem mmv_3696 : minimaxL 3 [none, some O, some X, some O, some X, some X, none, some O, none] X O = (some 6, 1) := rfl

theorem mmv_3694 : minimaxL 4 [none, some O, some X, some O, some X, some X, none, none, none] O X = (some 0, 1) := by
  rw [minimaxL_succ 3 [none, some O, some X, some O, some X, some X, none, none, none] O X [0, 6, 7, 8] rfl rfl (List.cons_ne_nil _ _)]
  show pickBest [(0, (minimaxL 3 [some O, some O, some X, some O, some X, some X, none, none, none] X O).2), (6, (minimaxL 3 [none, some O, some X, some O, some X, some X, some O, none, none] X O).2), (7, (minimaxL 3 [none, some O, some X, some O, some X, some X, none, some O, none] X O).2), (8, (minimaxL 3 [none, some O, some X, some O, some X, some X, none, none, some O] X O).2)] O = (some 0, 1)
  rw [mmv_3695, mmv_2727, mmv_3696, mmv_2755]
  rfl

theorem mmv_3699 : minimaxL 2 [none, some O, some O, some O, some X, some X, some X, some X, none] O X = (some 0, -1) := rfl

theorem mmv_3700 : minimaxL 2 [none, some O, some O, some O, some X, some X, some X, none, some X] O X = (some 0, -1) := rfl

theorem mmv_3698 : minimaxL 3 [none, some O, some O, some O, some X, some X, some X, none, none] X O = (some 0, 0) := by
  rw [minimaxL_succ 2 [none, some O, some O, some O, some X, some X, some X, none, none] X O [0, 7, 8] rfl rfl (List.cons_ne_nil _ _)]
  show pickBest [(0, (minimaxL 2 [some X, some O, some O, some O, some X, some X, some X, none, none] O X).2), (7, (minimaxL 2 [none, some O, some O, some O, some X, some X, some X, some X, none] O X).2), (8, (minimaxL 2 [none, some O, some O, some O, some X, some X, some X, none, some X] O X).2)] X = (some 0, 0)
  rw [mmv_0278, mmv_3699, mmv_3700]
  rfl

theorem mmv_3701 : minimaxL 3 [none, some O, none, some O, some X, some X, some X, some O, none] X O = (some 2, 1) := rfl

theorem mmv_3702 : minimaxL 3 [none, some O, none, some O, some X, some X, some X, none, some O] X O = (some 2, 1) := rfl

theorem mmv_3697 : minimaxL 4 [none, some O, none, some O, some X, some X, some X, none, none] O X = (some 2, 0) := by
  rw [minimaxL_succ 3 [none, some O, none, some O, some X, some X, some X, none, none] O X [0, 2, 7, 8] rfl rfl (List.cons_ne_nil _ _)]
  show pickBest [(0, (minimaxL 3 [some O, some O, none, some O, some X, some X, some X, none, none] X O).2), (2, (minimaxL 3 [none, some O, some O, some O, some X, some X, some X, none, none] X O).2), (7, (minimaxL 3 [none, some O, none, some O, some X, some X, some X, some O, none] X O).2), (8, (minimaxL 3 [none, some O, none, some O, some X, some X, some X, none, some O] X O).2)] O = (some 2, 0)
  rw [mmv_3616, mmv_3698, mmv_3701, mmv_3702]
  rfl

theorem mmv_3705 : minimaxL 2 [some O, some O, some X, some O, some X, some X, none, some X, none] O X = (some 6, -1) := rfl

theorem mmv_3706 : minimaxL 2 [some O, some O, none, some O, some X, some X, some X, some X, none] O X = (some 2, -1) := rfl

theorem mmv_3707 : minimaxL 2 [some O, some O, none, some O, some X, some X, none, some X, some X] O X = (some 2, -1) := rfl

theorem mmv_3704 : minimaxL 3 [some O, some O, none, some O, some X, some X, none, some X, none] X O = (some 8, -1) := by
  rw [minimaxL_succ 2 [some O, some O, none, some O, some X, some X, none, some X, none] X O [2, 6, 8] rfl rfl (List.cons_ne_nil _ _)]
  show pickBest [(2, (minimaxL 2 [some O, some O, some X, some O, some X, some X, none, some X, none] O X).2), (6, (minimaxL 2 [some O, some O, none, some O, some X, some X, some X, some X, none] O X).2), (8, (minimaxL 2 [some O, some O, none, some O, some X, some X, none, some X, some X] O X).2)] X = (some 8, -1)
  rw [mmv_3705, mmv_3706, mmv_3707]
  rfl

theorem mmv_3709 : minimaxL 2 [none, some O, some O, some O, some X, some X, none, some X, some X] O X = (some 0, -1) := rfl

theorem mmv_3708 : minimaxL 3 [none, some O, some O, some O, some X, some X, none, some X, none] X O = (some 0, 0) := by
  rw [minimaxL_succ 2 [none, some O, some O, some O, some X, some X, none, some X, none] X O [0, 6, 8] rfl rfl (List.cons_ne_nil _ _)]
  show pickBest [(0, (minimaxL 2 [some X, some O, some O, some O, some X, some X, none, some X, none] O X).2), (6, (minimaxL 2 [none, some O, some O, some O, some X, some X, some X, some X, none] O X).2), (8, (minimaxL 2 [none, some O, some O, some O, some X, some X, none, some X, some X] O X).2)] X = (some 0, 0)
  rw [mmv_0291, mmv_3699, mmv_3709]
  rfl

theorem mmv_3711 : minimaxL 2 [none, some O, none, some O, some X, some X, some O, some X, some X] O X = (some 0, -1) := rfl

theorem mmv_3710 : minimaxL 3 [none, some O, none, some O, some X, some X, some O, some X, none] X O = (some 0, 0) := by
  rw [minimaxL_succ 2 [none, some O, none, some O, some X, some X, some O, some X, none] X O [0, 2, 8] rfl rfl (List.cons_ne_nil _ _)]
  show pickBest [(0, (minimaxL 2 [some X, some O, none, some O, some X, some X, some O, some X, none] O X).2), (2, (minimaxL 2 [none, some O, some X, some O, some X, some X, some O, some X, none] O X).2), (8, (minimaxL 2 [none, some O, none, some O, some X, some X, some O, some X, some X] O X).2)] X = (some 0, 0)
  rw [mmv_0335, mmv_2732, mmv_3711]
  rfl

theorem mmv_3714 : minimaxL 1 [some O, some O, none, some O, some X, some X, some X, some X, some O] X O = (some 2, 1) := rfl

theorem mmv_3715 : minimaxL 1 [none, some O, some O, some O, some X, some X, some X, some X, some O] X O = (some 0, 0) := by
  rw [minimaxL_succ 0 [none, some O, some O, some O, some X, some X, some X, some X, some O] X O [0] rfl rfl (List.cons_ne_nil _ _)]
  show pickBest [(0, (minimaxL 0 [some X, some O, some O, some O, some X, some X, some X, some X, some O] O X).2)] X = (some 0, 0)
  rw [mmv_0239]
  rfl

theorem mmv_3713 : minimaxL 2 [none, some O, none, some O, some X, some X, some X, some X, some O] O X = (some 2, 0) := by
  rw [minimaxL_succ 1 [none, some O, none, some O, some X, some X, some X, some X, some O] O X [0, 2] rfl rfl (List.cons_ne_nil _ _)]
  show pickBest [(0, (minimaxL 1 [some O, some O, none, some O, some X, some X, some X, some X, some O] X O).2), (2, (minimaxL 1 [none, some O, some O, some O, some X, some X, some X, some X, some O] X O).2)] O = (some 2, 0)
  rw [mmv_3714, mmv_3715]
  rfl

theorem mmv_3712 : minimaxL 3 [none, some O, none, some O, some X, some X, none, some X, some O] X O = (some 6, 0) := by
  rw [minimaxL_succ 2 [none, some O, none, some O, some X, some X, none, some X, some O] X O [0, 2, 6] rfl rfl (List.cons_ne_nil _ _)]
  show pickBest [(0, (minimaxL 2 [some X, some O, none, some O, some X, some X, none, some X, some O] O X).2), (2, (minimaxL 2 [none, some O, some X, some O, some X, some X, none, some X, some O] O X).2), (6, (minimaxL 2 [none, some O, none, some O, some X, some X, some X, some X, some O] O X).2)] X = (some 6, 0)
  rw [mmv_0241, mmv_2765, mmv_3713]
  rfl

theorem mmv_3703 : minimaxL 4 [none, some O, none, some O, some X, some X, none, some X, none] O X = (some 0, -1) := by
  rw [minimaxL_succ 3 [none, some O, none, some O, some X, some X, none, some X, none] O X [0, 2, 6, 8] rfl rfl (List.cons_ne_nil _ _)]
  show pickBest [(0, (minimaxL 3 [some O, some O, none, some O, some X, some X, none, some X, none] X O).2), (2, (minimaxL 3 [none, some O, some O, some O, some X, some X, none, some X, none] X O).2), (6, (minimaxL 3 [none, some O, none, some O, some X, some X, some O, some X, none] X O).2), (8, (minimaxL 3 [none, some O, none, some O, some X, some X, none, some X, some O] X O).2)] O = (some 0, -1)
  rw [mmv_3704, mmv_3708, mmv_3710, mmv_3712]
  rfl

theorem mmv_3717 : minimaxL 3 [some O, some O, none, some O, some X, some X, none, none, some X] X O = (some 2, 1) := rfl

theorem mmv_3718 : minimaxL 3 [none, some O, some O, some O, some X, some X, none, none, some X] X O = (some 0, 1) := rfl

theorem mmv_3719 : minimaxL 3 [none, some O, none, some O, some X, some X, some O, none, some X] X O = (some 0, 1) := rfl

theorem mmv_3720 : minimaxL 3 [none, some O, none, some O, some X, some X, none, some O, some X] X O = (some 0, 1) := rfl

theorem mmv_3716 : minimaxL 4 [none, some O, none, some O, some X, some X, none, none, some X] O X = (some 0, 1) := by
  rw [minimaxL_succ 3 [none, some O, none, some O, some X, some X, none, none, some X] O X [0, 2, 6, 7] rfl rfl (List.cons_ne_nil _ _)]
  show pickBest [(0, (minimaxL 3 [some O, some O, none, some O, some X, some X, none, none, some X] X O).2), (2, (minimaxL 3 [none, some O, some O, some O, some X, some X, none, none, some X] X O).2), (6, (minimaxL 3 [none, some O, none, some O, some X, some X, some O, none, some X] X O).2), (7, (minimaxL 3 [none, some O, none, some O, some X, some X, none, some O, some X] X O).2)] O = (some 0, 1)
  rw [mmv_3717, mmv_3718, mmv_3719, mmv_3720]
  rfl

theorem mmv_3693 : minimaxL 5 [none, some O, none, some O, some X, some X, none, none, none] X O = (some 8, 1) := by
  rw [minimaxL_succ 4 [none, some O, none, some O, some X, some X, none, none, none] X O [0, 2, 6, 7, 8] rfl rfl (List.cons_ne_nil _ _)]
  show pickBest [(0, (minimaxL 4 [some X, some O, none, some O, some X, some X, none, none, none] O X).2), (2, (minimaxL 4 [none, some O, some X, some O, some X, some X, none, none, none] O X).2), (6, (minimaxL 4 [none, some O, none, some O, some X, some X, some X, none, none] O X).2), (7, (minimaxL 4 [none, some O, none, some O, some X, some X, none, some X, none] O X).2), (8, (minimaxL 4 [none, some O, none, some O, some X, some X, none, none, some X] O X).2)] X = (some 8, 1)
  rw [mmv_0316, mmv_3694, mmv_3697, mmv_3703, mmv_3716]
  rfl

theorem mmv_3721 : minimaxL 5 [none, some O, none, none, some X, some X, some O, none, none] X O = (some 3, 1) := rfl

theorem mmv_3722 : minimaxL 5 [none, some O, none, none, some X, some X, none, some O, none] X O = (some 3, 1) := rfl

theorem mmv_3723 : minimaxL 5 [none, some O, none, none, some X, some X, none, none, some O] X O = (some 3, 1) := rfl

theorem mmv_3691 : minimaxL 6 [none, some O, none, none, some X, some X, none, none, none] O X = (some 0, 1) := by
  rw [minimaxL_succ 5 [none, some O, none, none, some X, some X, none, none, none] O X [0, 2, 3, 6, 7, 8] rfl rfl (List.cons_ne_nil _ _)]
  show pickBest [(0, (minimaxL 5 [some O, some O, none, none, some X, some X, none, none, none] X O).2), (2, (minimaxL 5 [none, some O, some O, none, some X, some X, none, none, none] X O).2), (3, (minimaxL 5 [none, some O, none, some O, some X, some X, none, none, none] X O).2), (6, (minimaxL 5 [none, some O, none, none, some X, some X, some O, none, none] X O).2), (7, (minimaxL 5 [none, some O, none, none, some X, some X, none, some O, none] X O).2), (8, (minimaxL 5 [none, some O, none, none, some X, some X, none, none, some O] X O).2)] O = (some 0, 1)
  rw [mmv_3611, mmv_3692, mmv_3693, mmv_3721, mmv_3722, mmv_3723]
  rfl

theorem mmv_3727 : minimaxL 3 [some X, some O, some O, none, some X, some O, some X, none, none] X O = (some 8, 1) := rfl

theorem mmv_3728 : minimaxL 3 [some X, some O, some O, none, some X, none, some X, some O, none] X O = (some 8, 1) := rfl

theorem mmv_3726 : minimaxL 4 [some X, some O, some O, none, some X, none, some X, none, none] O X = (some 3, 1) := by
  rw [minimaxL_succ 3 [some X, some O, some O, none, some X, none, some X, none, none] O X [3, 5, 7, 8] rfl rfl (List.cons_ne_nil _ _)]
  show pickBest [(3, (minimaxL 3 [some X, some O, some O, some O, some X, none, some X, none, none] X O).2), (5, (minimaxL 3 [some X, some O, some O, none, some X, some O, some X, none, none] X O).2), (7, (minimaxL 3 [some X, some O, some O, none, some X, none, some X, some O, none] X O).2), (8, (minimaxL 3 [some X, some O, some O, none, some X, none, some X, none, some O] X O).2)] O = (some 3, 1)
  rw [mmv_0377, mmv_3727, mmv_3728, mmv_0247]
  rfl

theorem mmv_3729 : minimaxL 4 [none, some O, some O, some X, some X, none, some X, none, none] O X = (some 0, -1) := rfl

theorem mmv_3730 : minimaxL 4 [none, some O, some O, none, some X, some X, some X, none, none] O X = (some 0, -1) := rfl

theorem mmv_3731 : minimaxL 4 [none, some O, some O, none, some X, none, some X, some X, none] O X = (some 0, -1) := rfl

theorem mmv_3732 : minimaxL 4 [none, some O, some O, none, some X, none, some X, none, some X] O X = (some 0, -1) := rfl

theorem mmv_3725 : minimaxL 5 [none, some O, some O, none, some X, none, some X, none, none] X O = (some 0, 1) := by
  rw [minimaxL_succ 4 [none, some O, some O, none, some X, none, some X, none, none] X O [0, 3, 5, 7, 8] rfl rfl (List.cons_ne_nil _ _)]
  show pickBest [(0, (minimaxL 4 [some X, some O, some O, none, some X, none, some X, none, none] O X).2), (3, (minimaxL 4 [none, some O, some O, some X, some X, none, some X, none, none] O X).2), (5, (minimaxL 4 [none, some O, some O, none, some X, some X, some X, none, none] O X).2), (7, (minimaxL 4 [none, some O, some O, none, some X, none, some X, some X, none] O X).2), (8, (minimaxL 4 [none, some O, some O, none, some X, none, some X, none, some X] O X).2)] X = (some 0, 1)
  rw [mmv_3726, mmv_3729, mmv_3730, mmv_3731, mmv_3732]
  rfl

theorem mmv_3733 : minimaxL 5 [none, some O, none, some O, some X, none, some X, none, none] X O = (some 2, 1) := rfl

theorem mmv_3734 : minimaxL 5 [none, some O, none, none, some X, some O, some X, none, none] X O = (some 2, 1) := rfl

theorem mmv_3735 : minimaxL 5 [none, some O, none, none, some X, none, some X, some O, none] X O = (some 2, 1) := rfl

theorem mmv_3736 : minimaxL 5 [none, some O, none, none, some X, none, some X, none, some O] X O = (some 2, 1) := rfl

theorem mmv_3724 : minimaxL 6 [none, some O, none, none, some X, none, some X, none, none] O X = (some 0, 1) := by
  rw [minimaxL_succ 5 [none, some O, none, none, some X, none, some X, none, none] O X [0, 2, 3, 5, 7, 8] rfl rfl (List.cons_ne_nil _ _)]
  show pickBest [(0, (minimaxL 5 [some O, some O, none, none, some X, none, some X, none, none] X O).2), (2, (minimaxL 5 [none, some O, some O, none, some X, none, some X, none, none] X O).2), (3, (minimaxL 5 [none, some O, none, some O, some X, none, some X, none, none] X O).2), (5, (minimaxL 5 [none, some O, none, none, some X, some O, some X, none, none] X O).2), (7, (minimaxL 5 [none, some O, none, none, some X, none, some X, some O, none] X O).2), (8, (minimaxL 5 [none, some O, none, none, some X, none, some X, none, some O] X O).2)] O = (some 0, 1)
  rw [mmv_3628, mmv_3725, mmv_3733, mmv_3734, mmv_3735, mmv_3736]
  rfl

theorem mmv_3739 : minimaxL 4 [none, some O, some O, none, some X, some X, none, some X, none] O X = (some 0, -1) := rfl

theorem mmv_3740 : minimaxL 4 [none, some O, some O, none, some X, none, none, some X, some X] O X = (some 0, -1) := rfl

theorem mmv_3738 : minimaxL 5 [none, some O, some O, none, some X, none, none, some X, none] X O = (some 0, 0) := by
  rw [minimaxL_succ 4 [none, some O, some O, none, some X, none, none, some X, none] X O [0, 3, 5, 6, 8] rfl rfl (List.cons_ne_nil _ _)]
  show pickBest [(0, (minimaxL 4 [some X, some O, some O, none, some X, none, none, some X, none] O X).2), (3, (minimaxL 4 [none, some O, some O, some X, some X, none, none, some X, none] O X).2), (5, (minimaxL 4 [none, some O, some O, none, some X, some X, none, some X, none] O X).2), (6, (minimaxL 4 [none, some O, some O, none, some X, none, some X, some X, none] O X).2), (8, (minimaxL 4 [none, some O, some O, none, some X, none, none, some X, some X] O X).2)] X = (some 0, 0)
  rw [mmv_0400, mmv_3357, mmv_3739, mmv_3731, mmv_3740]
  rfl

theorem mmv_3743 : minimaxL 3 [some O, some O, none, some O, some X, none, some X, some X, none] X O = (some 2, 1) := rfl

theorem mmv_3744 : minimaxL 3 [none, some O, some O, some O, some X, none, some X, some X, none] X O = (some 8, 1) := rfl

theorem mmv_3745 : minimaxL 3 [none, some O, none, some O, some X, some O, some X, some X, none] X O = (some 2, 1) := rfl

theorem mmv_3746 : minimaxL 3 [none, some O, none, some O, some X, none, some X, some X, some O] X O = (some 2, 1) := rfl

theorem mmv_3742 : minimaxL 4 [none, some O, none, some O, some X, none, some X, some X, none] O X = (some 0, 1) := by
  rw [minimaxL_succ 3 [none, some O, none, some O, some X, none, some X, some X, none] O X [0, 2, 5, 8] rfl rfl (List.cons_ne_nil _ _)]
  show pickBest [(0, (minimaxL 3 [some O, some O, none, some O, some X, none, some X, some X, none] X O).2), (2, (minimaxL 3 [none, some O, some O, some O, some X, none, some X, some X, none] X O).2), (5, (minimaxL 3 [none, some O, none, some O, some X, some O, some X, some X, none] X O).2), (8, (minimaxL 3 [none, some O, none, some O, some X, none, some X, some X, some O] X O).2)] O = (some 0, 1)
  rw [mmv_3743, mmv_3744, mmv_3745, mmv_3746]
  rfl

theorem mmv_3748 : minimaxL 3 [some O, some O, none, some O, some X, none, none, some X, some X] X O = (some 6, 1) := rfl

theorem mmv_3749 : minimaxL 3 [none, some O, some O, some O, some X, none, none, some X, some X] X O = (some 0, 1) := rfl

theorem mmv_3750 : minimaxL 3 [none, some O, none, some O, some X, some O, none, some X, some X] X O = (some 0, 1) := rfl

theorem mmv_3751 : minimaxL 3 [none, some O, none, some O, some X, none, some O, some X, some X] X O = (some 0, 1) := rfl

theorem mmv_3747 : minimaxL 4 [none, some O, none, some O, some X, none, none, some X, some X] O X = (some 0, 1) := by
  rw [minimaxL_succ 3 [none, some O, none, some O, some X, none, none, some X, some X] O X [0, 2, 5, 6] rfl rfl (List.cons_ne_nil _ _)]
  show pickBest [(0, (minimaxL 3 [some O, some O, none, some O, some X, none, none, some X, some X] X O).2), (2, (minimaxL 3 [none, some O, some O, some O, some X, none, none, some X, some X] X O).2), (5, (minimaxL 3 [none, some O, none, some O, some X, some O, none, some X, some X] X O).2), (6, (minimaxL 3 [none, some O, none, some O, some X, none, some O, some X, some X] X O).2)] O = (some 0, 1)
  rw [mmv_3748, mmv_3749, mmv_3750, mmv_3751]
  rfl

theorem mmv_3741 : minimaxL 5 [none, some O, none, some O, some X, none, none, some X, none] X O = (some 8, 1) := by
  rw [minimaxL_succ 4 [none, some O, none, some O, some X, none, none, some X, none] X O [0, 2, 5, 6, 8] rfl rfl (List.cons_ne_nil _ _)]
  show pickBest [(0, (minimaxL 4 [some X, some O, none, some O, some X, none, none, some X, none] O X).2), (2, (minimaxL 4 [none, some O, some X, some O, some X, none, none, some X, none] O X).2), (5, (minimaxL 4 [none, some O, none, some O, some X, some X, none, some X, none] O X).2), (6, (minimaxL 4 [none, some O, none, some O, some X, none, some X, some X, none] O X).2), (8, (minimaxL 4 [none, some O, none, some O, some X, none, none, some X, some X] O X).2)] X = (some 8, 1)
  rw [mmv_0414, mmv_2785, mmv_3703, mmv_3742, mmv_3747]
  rfl

theorem mmv_3754 : minimaxL 3 [some O, some O, none, none, some X, some O, some X, some X, none] X O = (some 2, 1) := rfl

theorem mmv_3755 : minimaxL 3 [none, some O, some O, none, some X, some O, some X, some X, none] X O = (some 8, 1) := rfl

theorem mmv_3756 : minimaxL 3 [none, some O, none, none, some X, some O, some X, some X, some O] X O = (some 2, 1) := rfl

theorem mmv_3753 : minimaxL 4 [none, some O, none, none, some X, some O, some X, some X, none] O X = (some 0, 1) := by
  rw [minimaxL_succ 3 [none, some O, none, none, some X, some O, some X, some X, none] O X [0, 2, 3, 8] rfl rfl (List.cons_ne_nil _ _)]
  show pickBest [(0, (minimaxL 3 [some O, some O, none, none, some X, some O, some X, some X, none] X O).2), (2, (minimaxL 3 [none, some O, some O, none, some X, some O, some X, some X, none] X O).2), (3, (minimaxL 3 [none, some O, none, some O, some X, some O, some X, some X, none] X O).2), (8, (minimaxL 3 [none, some O, none, none, some X, some O, some X, some X, some O] X O).2)] O = (some 0, 1)
  rw [mmv_3754, mmv_3755, mmv_3745, mmv_3756]
  rfl

theorem mmv_3758 : minimaxL 3 [none, some O, some O, none, some X, some O, none, some X, some X] X O = (some 0, 1) := rfl

theorem mmv_3759 : minimaxL 3 [none, some O, none, none, some X, some O, some O, some X, some X] X O = (some 0, 1) := rfl

theorem mmv_3757 : minimaxL 4 [none, some O, none, none, some X, some O, none, some X, some X] O X = (some 0, 1) := by
  rw [minimaxL_succ 3 [none, some O, none, none, some X, some O, none, some X, some X] O X [0, 2, 3, 6] rfl rfl (List.cons_ne_nil _ _)]
  show pickBest [(0, (minimaxL 3 [some O, some O, none, none, some X, some O, none, some X, some X] X O).2), (2, (minimaxL 3 [none, some O, some O, none, some X, some O, none, some X, some X] X O).2), (3, (minimaxL 3 [none, some O, none, some O, some X, some O, none, some X, some X] X O).2), (6, (minimaxL 3 [none, some O, none, none, some X, some O, some O, some X, some X] X O).2)] O = (some 0, 1)
  rw [mmv_3671, mmv_3758, mmv_3750, mmv_3759]
  rfl

theorem mmv_3752 : minimaxL 5 [none, some O, none, none, some X, some O, none, some X, none] X O = (some 8, 1) := by
  rw [minimaxL_succ 4 [none, some O, none, none, some X, some O, none, some X, none] X O [0, 2, 3, 6, 8] rfl rfl (List.cons_ne_nil _ _)]
  show pickBest [(0, (minimaxL 4 [some X, some O, none, none, some X, some O, none, some X, none] O X).2), (2, (minimaxL 4 [none, some O, some X, none, some X, some O, none, some X, none] O X).2), (3, (minimaxL 4 [none, some O, none, some X, some X, some O, none, some X, none] O X).2), (6, (minimaxL 4 [none, some O, none, none, some X, some O, some X, some X, none] O X).2), (8, (minimaxL 4 [none, some O, none, none, some X, some O, none, some X, some X] O X).2)] X = (some 8, 1)
  rw [mmv_0434, mmv_2805, mmv_3313, mmv_3753, mmv_3757]
  rfl

theorem mmv_3762 : minimaxL 3 [some O, some O, none, none, some X, some X, some O, some X, none] X O = (some 3, 1) := rfl

theorem mmv_3763 : minimaxL 3 [none, some O, some O, none, some X, some X, some O, some X, none] X O = (some 3, 1) := rfl

theorem mmv_3764 : minimaxL 3 [none, some O, none, none, some X, some X, some O, some X, some O] X O = (some 3, 1) := rfl

theorem mmv_3761 : minimaxL 4 [none, some O, none, none, some X, some X, some O, some X, none] O X = (some 3, 0) := by
  rw [minimaxL_succ 3 [none, some O, none, none, some X, some X, some O, some X, none] O X [0, 2, 3, 8] rfl rfl (List.cons_ne_nil _ _)]
  show pickBest [(0, (minimaxL 3 [some O, some O, none, none, some X, some X, some O, some X, none] X O).2), (2, (minimaxL 3 [none, some O, some O, none, some X, some X, some O, some X, none] X O).2), (3, (minimaxL 3 [none, some O, none, some O, some X, some X, some O, some X, none] X O).2), (8, (minimaxL 3 [none, some O, none, none, some X, some X, some O, some X, some O] X O).2)] O = (some 3, 0)
  rw [mmv_3762, mmv_3763, mmv_3710, mmv_3764]
  rfl

theorem mmv_3767 : minimaxL 2 [some O, some O, none, none, some X, some X, some O, some X, some X] O X = (some 2, -1) := rfl

theorem mmv_3766 : minimaxL 3 [some O, some O, none, none, some X, none, some O, some X, some X] X O = (some 5, -1) := by
  rw [minimaxL_succ 2 [some O, some O, none, none, some X, none, some O, some X, some X] X O [2, 3, 5] rfl rfl (List.cons_ne_nil _ _)]
  show pickBest [(2, (minimaxL 2 [some O, some O, some X, none, some X, none, some O, some X, some X] O X).2), (3, (minimaxL 2 [some O, some O, none, some X, some X, none, some O, some X, some X] O X).2), (5, (minimaxL 2 [some O, some O, none, none, some X, some X, some O, some X, some X] O X).2)] X = (some 5, -1)
  rw [mmv_2573, mmv_3267, mmv_3767]
  rfl

theorem mmv_3768 : minimaxL 3 [none, some O, some O, none, some X, none, some O, some X, some X] X O = (some 0, 1) := rfl

theorem mmv_3765 : minimaxL 4 [none, some O, none, none, some X, none, some O, some X, some X] O X = (some 0, -1) := by
  rw [minimaxL_succ 3 [none, some O, none, none, some X, none, some O, some X, some X] O X [0, 2, 3, 5] rfl rfl (List.cons_ne_nil _ _)]
  show pickBest [(0, (minimaxL 3 [some O, some O, none, none, some X, none, some O, some X, some X] X O).2), (2, (minimaxL 3 [none, some O, some O, none, some X, none, some O, some X, some X] X O).2), (3, (minimaxL 3 [none, some O, none, some O, some X, none, some O, some X, some X] X O).2), (5, (minimaxL 3 [none, some O, none, none, some X, some O, some O, some X, some X] X O).2)] O = (some 0, -1)
  rw [mmv_3766, mmv_3768, mmv_3751, mmv_3759]
  rfl

theorem mmv_3760 : minimaxL 5 [none, some O, none, none, some X, none, some O, some X, none] X O = (some 5, 0) := by
  rw [minimaxL_succ 4 [none, some O, none, none, some X, none, some O, some X, none] X O [0, 2, 3, 5, 8] rfl rfl (List.cons_ne_nil _ _)]
  show pickBest [(0, (minimaxL 4 [some X, some O, none, none, some X, none, some O, some X, none] O X).2), (2, (minimaxL 4 [none, some O, some X, none, some X, none, some O, some X, none] O X).2), (3, (minimaxL 4 [none, some O, none, some X, some X, none, some O, some X, none] O X).2), (5, (minimaxL 4 [none, some O, none, none, some X, some X, some O, some X, none] O X).2), (8, (minimaxL 4 [none, some O, none, none, some X, none, some O, some X, some X] O X).2)] X = (some 5, 0)
  rw [mmv_0441, mmv_2730, mmv_3379, mmv_3761, mmv_3765]
  rfl

theorem mmv_3771 : minimaxL 3 [some O, some O, none, none, some X, some X, none, some X, some O] X O = (some 3, 1) := rfl

theorem mmv_3772 : minimaxL 3 [none, some O, some O, none, some X, some X, none, some X, some O] X O = (some 3, 1) := rfl

theorem mmv_3770 : minimaxL 4 [none, some O, none, none, some X, some X, none, some X, some O] O X = (some 3, 0) := by
  rw [minimaxL_succ 3 [none, some O, none, none, some X, some X, none, some X, some O] O X [0, 2, 3, 6] rfl rfl (List.cons_ne_nil _ _)]
  show pickBest [(0, (minimaxL 3 [some O, some O, none, none, some X, some X, none, some X, some O] X O).2), (2, (minimaxL 3 [none, some O, some O, none, some X, some X, none, some X, some O] X O).2), (3, (minimaxL 3 [none, some O, none, some O, some X, some X, none, some X, some O] X O).2), (6, (minimaxL 3 [none, some O, none, none, some X, some X, some O, some X, some O] X O).2)] O = (some 3, 0)
  rw [mmv_3771, mmv_3772, mmv_3712, mmv_3764]
  rfl

theorem mmv_3774 : minimaxL 3 [some O, some O, none, none, some X, none, some X, some X, some O] X O = (some 2, 1) := rfl

theorem mmv_3776 : minimaxL 2 [none, some O, some O, some X, some X, none, some X, some X, some O] O X = (some 0, -1) := rfl

theorem mmv_3777 : minimaxL 2 [none, some O, some O, none, some X, some X, some X, some X, some O] O X = (some 0, -1) := rfl

theorem mmv_3775 : minimaxL 3 [none, some O, some O, none, some X, none, some X, some X, some O] X O = (some 5, -1) := by
  rw [minimaxL_succ 2 [none, some O, some O, none, some X, none, some X, some X, some O] X O [0, 3, 5] rfl rfl (List.cons_ne_nil _ _)]
  show pickBest [(0, (minimaxL 2 [some X, some O, some O, none, some X, none, some X, some X, some O] O X).2), (3, (minimaxL 2 [none, some O, some O, some X, some X, none, some X, some X, some O] O X).2), (5, (minimaxL 2 [none, some O, some O, none, some X, some X, some X, some X, some O] O X).2)] X = (some 5, -1)
  rw [mmv_0256, mmv_3776, mmv_3777]
  rfl

theorem mmv_3773 : minimaxL 4 [none, some O, none, none, some X, none, some X, some X, some O] O X = (some 2, -1) := by
  rw [minimaxL_succ 3 [none, some O, none, none, some X, none, some X, some X, some O] O X [0, 2, 3, 5] rfl rfl (List.cons_ne_nil _ _)]
  show pickBest [(0, (minimaxL 3 [some O, some O, none, none, some X, none, some X, some X, some O] X O).2), (2, (minimaxL 3 [none, some O, some O, none, some X, none, some X, some X, some O] X O).2), (3, (minimaxL 3 [none, some O, none, some O, some X, none, some X, some X, some O] X O).2), (5, (minimaxL 3 [none, some O, none, none, some X, some O, some X, some X, some O] X O).2)] O = (some 2, -1)
  rw [mmv_3774, mmv_3775, mmv_3746, mmv_3756]
  rfl

theorem mmv_3769 : minimaxL 5 [none, some O, none, none, some X, none, none, some X, some O] X O = (some 5, 0) := by
  rw [minimaxL_succ 4 [none, some O, none, none, some X, none, none, some X, some O] X O [0, 2, 3, 5, 6] rfl rfl (List.cons_ne_nil _ _)]
  show pickBest [(0, (minimaxL 4 [some X, some O, none, none, some X, none, none, some X, some O] O X).2), (2, (minimaxL 4 [none, some O, some X, none, some X, none, none, some X, some O] O X).2), (3, (minimaxL 4 [none, some O, none, some X, some X, none, none, some X, some O] O X).2), (5, (minimaxL 4 [none, some O, none, none, some X, some X, none, some X, some O] O X).2), (6, (minimaxL 4 [none, some O, none, none, some X, none, some X, some X, some O] O X).2)] X = (some 5, 0)
  rw [mmv_0251, mmv_2815, mmv_3390, mmv_3770, mmv_3773]
  rfl

theorem mmv_3737 : minimaxL 6 [none, some O, none, none, some X, none, none, some X, none] O X = (some 0, 0) := by
  rw [minimaxL_succ 5 [none, some O, none, none, some X, none, none, some X, none] O X [0, 2, 3, 5, 6, 8] rfl rfl (List.cons_ne_nil _ _)]
  show pickBest [(0, (minimaxL 5 [some O, some O, none, none, some X, none, none, some X, none] X O).2), (2, (minimaxL 5 [none, some O, some O, none, some X, none, none, some X, none] X O).2), (3, (minimaxL 5 [none, some O, none, some O, some X, none, none, some X, none] X O).2), (5, (minimaxL 5 [none, some O, none, none, some X, some O, none, some X, none] X O).2), (6, (minimaxL 5 [none, some O, none, none, some X, none, some O, some X, none] X O).2), (8, (minimaxL 5 [none, some O, none, none, some X, none, none, some X, some O] X O).2)] O = (some 0, 0)
  rw [mmv_3638, mmv_3738, mmv_3741, mmv_3752, mmv_3760, mmv_3769]
  rfl

theorem mmv_3779 : minimaxL 5 [none, some O, some O, none, some X, none, none, none, some X] X O = (some 0, 1) := rfl

theorem mmv_3780 : minimaxL 5 [none, some O, none, some O, some X, none, none, none, some X] X O = (some 0, 1) := rfl

theorem mmv_3781 : minimaxL 5 [none, some O, none, none, some X, some O, none, none, some X] X O = (some 0, 1) := rfl

theorem mmv_3782 : minimaxL 5 [none, some O, none, none, some X, none, some O, none, some X] X O = (some 0, 1) := rfl

theorem mmv_3783 : minimaxL 5 [none, some O, none, none, some X, none, none, some O, some X] X O = (some 0, 1) := rfl

theorem mmv_3778 : minimaxL 6 [none, some O, none, none, some X, none, none, none, some X] O X = (some 0, 1) := by
  rw [minimaxL_succ 5 [none, some O, none, none, some X, none, none, none, some X] O X [0, 2, 3, 5, 6, 7] rfl rfl (List.cons_ne_nil _ _)]
  show pickBest [(0, (minimaxL 5 [some O, some O, none, none, some X, none, none, none, some X] X O).2), (2, (minimaxL 5 [none, some O, some O, none, some X, none, none, none, some X] X O).2), (3, (minimaxL 5 [none, some O, none, some O, some X, none, none, none, some X] X O).2), (5, (minimaxL 5 [none, some O, none, none, some X, some O, none, none, some X] X O).2), (6, (minimaxL 5 [none, some O, none, none, some X, none, some O, none, some X] X O).2), (7, (minimaxL 5 [none, some O, none, none, some X, none, none, some O, some X] X O).2)] O = (some 0, 1)
  rw [mmv_3648, mmv_3779, mmv_3780, mmv_3781, mmv_3782, mmv_3783]
  rfl

theorem mmv_3690 : minimaxL 7 [none, some O, none, none, some X, none, none, none, none] X O = (some 8, 1) := by
  rw [minimaxL_succ 6 [none, some O, none, none, some X, none, none, none, none] X O [0, 2, 3, 5, 6, 7, 8] rfl rfl (List.cons_ne_nil _ _)]
  show pickBest [(0, (minimaxL 6 [some X, some O, none, none, some X, none, none, none, none] O X).2), (2, (minimaxL 6 [none, some O, some X, none, some X, none, none, none, none] O X).2), (3, (minimaxL 6 [none, some O, none, some X, some X, none, none, none, none] O X).2), (5, (minimaxL 6 [none, some O, none, none, some X, some X, none, none, none] O X).2), (6, (minimaxL 6 [none, some O, none, none, some X, none, some X, none, none] O X).2), (7, (minimaxL 6 [none, some O, none, none, some X, none, none, some X, none] O X).2), (8, (minimaxL 6 [none, some O, none, none, some X, none, none, none, some X] O X).2)] X = (some 8, 1)
  rw [mmv_0223, mmv_2721, mmv_3303, mmv_3691, mmv_3724, mmv_3737, mmv_3778]
  rfl

theorem mmv_3790 : minimaxL 1 [some O, none, some O, some O, some X, some X, some X, some O, some X] X O = (some 1, 0) := by
  rw [minimaxL_succ 0 [some O, none, some O, some O, some X, some X, some X, some O, some X] X O [1] rfl rfl (List.cons_ne_nil _ _)]
  show pickBest [(1, (minimaxL 0 [some O, some X, some O, some O, some X, some X, some X, some O, some X] O X).2)] X = (some 1, 0)
  rw [mmv_1534]
  rfl

theorem mmv_3791 : minimaxL 1 [none, some O, some O, some O, some X, some X, some X, some O, some X] X O = (some 0, 1) := rfl

theorem mmv_3789 : minimaxL 2 [none, none, some O, some O, some X, some X, some X, some O, some X] O X = (some 0, 0) := by
  rw [minimaxL_succ 1 [none, none, some O, some O, some X, some X, some X, some O, some X] O X [0, 1] rfl rfl (List.cons_ne_nil _ _)]
  show pickBest [(0, (minimaxL 1 [some O, none, some O, some O, some X, some X, some X, some O, some X] X O).2), (1, (minimaxL 1 [none, some O, some O, some O, some X, some X, some X, some O, some X] X O).2)] O = (some 0, 0)
  rw [mmv_3790, mmv_3791]
  rfl

theorem mmv_3788 : minimaxL 3 [none, none, some O, some O, some X, some X, some X, some O, none] X O = (some 8, 0) := by
  rw [minimaxL_succ 2 [none, none, some O, some O, some X, some X, some X, some O, none] X O [0, 1, 8] rfl rfl (List.cons_ne_nil _ _)]
  show pickBest [(0, (minimaxL 2 [some X, none, some O, some O, some X, some X, some X, some O, none] O X).2), (1, (minimaxL 2 [none, some X, some O, some O, some X, some X, some X, some O, none] O X).2), (8, (minimaxL 2 [none, none, some O, some O, some X, some X, some X, some O, some X] O X).2)] X = (some 8, 0)
  rw [mmv_0644, mmv_1808, mmv_3789]
  rfl

theorem mmv_3794 : minimaxL 1 [some O, none, some O, some O, some X, some X, some X, some X, some O] X O = (some 1, 1) := rfl

theorem mmv_3793 : minimaxL 2 [none, none, some O, some O, some X, some X, some X, some X, some O] O X = (some 1, 0) := by
  rw [minimaxL_succ 1 [none, none, some O, some O, some X, some X, some X, some X, some O] O X [0, 1] rfl rfl (List.cons_ne_nil _ _)]
  show pickBest [(0, (minimaxL 1 [some O, none, some O, some O, some X, some X, some X, some X, some O] X O).2), (1, (minimaxL 1 [none, some O, some O, some O, some X, some X, some X, some X, some O] X O).2)] O = (some 1, 0)
  rw [mmv_3794, mmv_3715]
  rfl

theorem mmv_3792 : minimaxL 3 [none, none, some O, some O, some X, some X, some X, none, some O] X O = (some 7, 0) := by
  rw [minimaxL_succ 2 [none, none, some O, some O, some X, some X, some X, none, some O] X O [0, 1, 7] rfl rfl (List.cons_ne_nil _ _)]
  show pickBest [(0, (minimaxL 2 [some X, none, some O, some O, some X, some X, some X, none, some O] O X).2), (1, (minimaxL 2 [none, some X, some O, some O, some X, some X, some X, none, some O] O X).2), (7, (minimaxL 2 [none, none, some O, some O, some X, some X, some X, some X, some O] O X).2)] X = (some 7, 0)
  rw [mmv_0624, mmv_1843, mmv_3793]
  rfl

theorem mmv_3787 : minimaxL 4 [none, none, some O, some O, some X, some X, some X, none, none] O X = (some 0, 0) := by
  rw [minimaxL_succ 3 [none, none, some O, some O, some X, some X, some X, none, none] O X [0, 1, 7, 8] rfl rfl (List.cons_ne_nil _ _)]
  show pickBest [(0, (minimaxL 3 [some O, none, some O, some O, some X, some X, some X, none, none] X O).2), (1, (minimaxL 3 [none, some O, some O, some O, some X, some X, some X, none, none] X O).2), (7, (minimaxL 3 [none, none, some O, some O, some X, some X, some X, some O, none] X O).2), (8, (minimaxL 3 [none, none, some O, some O, some X, some X, some X, none, some O] X O).2)] O = (some 0, 0)
  rw [mmv_3617, mmv_3698, mmv_3788, mmv_3792]
  rfl

theorem mmv_3796 : minimaxL 3 [some O, none, some O, some O, some X, some X, none, some X, none] X O = (some 1, 1) := rfl

theorem mmv_3797 : minimaxL 3 [none, none, some O, some O, some X, some X, some O, some X, none] X O = (some 1, 1) := rfl

theorem mmv_3798 : minimaxL 3 [none, none, some O, some O, some X, some X, none, some X, some O] X O = (some 1, 1) := rfl

theorem mmv_3795 : minimaxL 4 [none, none, some O, some O, some X, some X, none, some X, none] O X = (some 1, 0) := by
  rw [minimaxL_succ 3 [none, none, some O, some O, some X, some X, none, some X, none] O X [0, 1, 6, 8] rfl rfl (List.cons_ne_nil _ _)]
  show pickBest [(0, (minimaxL 3 [some O, none, some O, some O, some X, some X, none, some X, none] X O).2), (1, (minimaxL 3 [none, some O, some O, some O, some X, some X, none, some X, none] X O).2), (6, (minimaxL 3 [none, none, some O, some O, some X, some X, some O, some X, none] X O).2), (8, (minimaxL 3 [none, none, some O, some O, some X, some X, none, some X, some O] X O).2)] O = (some 1, 0)
  rw [mmv_3796, mmv_3708, mmv_3797, mmv_3798]
  rfl

theorem mmv_3801 : minimaxL 2 [some O, none, some O, some O, some X, some X, none, some X, some X] O X = (some 1, -1) := rfl

theorem mmv_3800 : minimaxL 3 [some O, none, some O, some O, some X, some X, none, none, some X] X O = (some 7, -1) := by
  rw [minimaxL_succ 2 [some O, none, some O, some O, some X, some X, none, none, some X] X O [1, 6, 7] rfl rfl (List.cons_ne_nil _ _)]
  show pickBest [(1, (minimaxL 2 [some O, some X, some O, some O, some X, some X, none, none, some X] O X).2), (6, (minimaxL 2 [some O, none, some O, some O, some X, some X, some X, none, some X] O X).2), (7, (minimaxL 2 [some O, none, some O, some O, some X, some X, none, some X, some X] O X).2)] X = (some 7, -1)
  rw [mmv_1596, mmv_3619, mmv_3801]
  rfl

theorem mmv_3802 : minimaxL 3 [none, none, some O, some O, some X, some X, some O, none, some X] X O = (some 0, 1) := rfl

theorem mmv_3803 : minimaxL 3 [none, none, some O, some O, some X, some X, none, some O, some X] X O = (some 0, 1) := rfl

theorem mmv_3799 : minimaxL 4 [none, none, some O, some O, some X, some X, none, none, some X] O X = (some 0, -1) := by
  rw [minimaxL_succ 3 [none, none, some O, some O, some X, some X, none, none, some X] O X [0, 1, 6, 7] rfl rfl (List.cons_ne_nil _ _)]
  show pickBest [(0, (minimaxL 3 [some O, none, some O, some O, some X, some X, none, none, some X] X O).2), (1, (minimaxL 3 [none, some O, some O, some O, some X, some X, none, none, some X] X O).2), (6, (minimaxL 3 [none, none, some O, some O, some X, some X, some O, none, some X] X O).2), (7, (minimaxL 3 [none, none, some O, some O, some X, some X, none, some O, some X] X O).2)] O = (some 0, -1)
  rw [mmv_3800, mmv_3718, mmv_3802, mmv_3803]
  rfl

theorem mmv_3786 : minimaxL 5 [none, none, some O, some O, some X, some X, none, none, none] X O = (some 7, 0) := by
  rw [minimaxL_succ 4 [none, none, some O, some O, some X, some X, none, none, none] X O [0, 1, 6, 7, 8] rfl rfl (List.cons_ne_nil _ _)]
  show pickBest [(0, (minimaxL 4 [some X, none, some O, some O, some X, some X, none, none, none] O X).2), (1, (minimaxL 4 [none, some X, some O, some O, some X, some X, none, none, none] O X).2), (6, (minimaxL 4 [none, none, some O, some O, some X, some X, some X, none, none] O X).2), (7, (minimaxL 4 [none, none, some O, some O, some X, some X, none, some X, none] O X).2), (8, (minimaxL 4 [none, none, some O, some O, some X, some X, none, none, some X] O X).2)] X = (some 7, 0)
  rw [mmv_0634, mmv_1831, mmv_3787, mmv_3795, mmv_3799]
  rfl

theorem mmv_3804 : minimaxL 5 [none, none, some O, none, some X, some X, some O, none, none] X O = (some 3, 1) := rfl

theorem mmv_3805 : minimaxL 5 [none, none, some O, none, some X, some X, none, some O, none] X O = (some 3, 1) := rfl

theorem mmv_3806 : minimaxL 5 [none, none, some O, none, some X, some X, none, none, some O] X O = (some 3, 1) := rfl

theorem mmv_3785 : minimaxL 6 [none, none, some O, none, some X, some X, none, none, none] O X = (some 3, 0) := by
  rw [minimaxL_succ 5 [none, none, some O, none, some X, some X, none, none, none] O X [0, 1, 3, 6, 7, 8] rfl rfl (List.cons_ne_nil _ _)]
  show pickBest [(0, (minimaxL 5 [some O, none, some O, none, some X, some X, none, none, none] X O).2), (1, (minimaxL 5 [none, some O, some O, none, some X, some X, none, none, none] X O).2), (3, (minimaxL 5 [none, none, some O, some O, some X, some X, none, none, none] X O).2), (6, (minimaxL 5 [none, none, some O, none, some X, some X, some O, none, none] X O).2), (7, (minimaxL 5 [none, none, some O, none, some X, some X, none, some O, none] X O).2), (8, (minimaxL 5 [none, none, some O, none, some X, some X, none, none, some O] X O).2)] O = (some 3, 0)
  rw [mmv_3612, mmv_3692, mmv_3786, mmv_3804, mmv_3805, mmv_3806]
  rfl

theorem mmv_3810 : minimaxL 3 [some O, none, some O, some O, some X, none, some X, some X, none] X O = (some 1, 1) := rfl

theorem mmv_3811 : minimaxL 3 [none, none, some O, some O, some X, some O, some X, some X, none] X O = (some 1, 1) := rfl

theorem mmv_3812 : minimaxL 3 [none, none, some O, some O, some X, none, some X, some X, some O] X O = (some 1, 1) := rfl

theorem mmv_3809 : minimaxL 4 [none, none, some O, some O, some X, none, some X, some X, none] O X = (some 0, 1) := by
  rw [minimaxL_succ 3 [none, none, some O, some O, some X, none, some X, some X, none] O X [0, 1, 5, 8] rfl rfl (List.cons_ne_nil _ _)]
  show pickBest [(0, (minimaxL 3 [some O, none, some O, some O, some X, none, some X, some X, none] X O).2), (1, (minimaxL 3 [none, some O, some O, some O, some X, none, some X, some X, none] X O).2), (5, (minimaxL 3 [none, none, some O, some O, some X, some O, some X, some X, none] X O).2), (8, (minimaxL 3 [none, none, some O, some O, some X, none, some X, some X, some O] X O).2)] O = (some 0, 1)
  rw [mmv_3810, mmv_3744, mmv_3811, mmv_3812]
  rfl

theorem mmv_3814 : minimaxL 3 [none, some O, some O, some O, some X, none, some X, none, some X] X O = (some 0, 1) := rfl

theorem mmv_3815 : minimaxL 3 [none, none, some O, some O, some X, some O, some X, none, some X] X O = (some 0, 1) := rfl

theorem mmv_3816 : minimaxL 3 [none, none, some O, some O, some X, none, some X, some O, some X] X O = (some 0, 1) := rfl

theorem mmv_3813 : minimaxL 4 [none, none, some O, some O, some X, none, some X, none, some X] O X = (some 0, 1) := by
  rw [minimaxL_succ 3 [none, none, some O, some O, some X, none, some X, none, some X] O X [0, 1, 5, 7] rfl rfl (List.cons_ne_nil _ _)]
  show pickBest [(0, (minimaxL 3 [some O, none, some O, some O, some X, none, some X, none, some X] X O).2), (1, (minimaxL 3 [none, some O, some O, some O, some X, none, some X, none, some X] X O).2), (5, (minimaxL 3 [none, none, some O, some O, some X, some O, some X, none, some X] X O).2), (7, (minimaxL 3 [none, none, some O, some O, some X, none, some X, some O, some X] X O).2)] O = (some 0, 1)
  rw [mmv_3661, mmv_3814, mmv_3815, mmv_3816]
  rfl

theorem mmv_3808 : minimaxL 5 [none, none, some O, some O, some X, none, some X, none, none] X O = (some 8, 1) := by
  rw [minimaxL_succ 4 [none, none, some O, some O, some X, none, some X, none, none] X O [0, 1, 5, 7, 8] rfl rfl (List.cons_ne_nil _ _)]
  show pickBest [(0, (minimaxL 4 [some X, none, some O, some O, some X, none, some X, none, none] O X).2), (1, (minimaxL 4 [none, some X, some O, some O, some X, none, some X, none, none] O X).2), (5, (minimaxL 4 [none, none, some O, some O, some X, some X, some X, none, none] O X).2), (7, (minimaxL 4 [none, none, some O, some O, some X, none, some X, some X, none] O X).2), (8, (minimaxL 4 [none, none, some O, some O, some X, none, some X, none, some X] O X).2)] X = (some 8, 1)
  rw [mmv_0698, mmv_1885, mmv_3787, mmv_3809, mmv_3813]
  rfl

theorem mmv_3818 : minimaxL 4 [some X, none, some O, none, some X, some O, some X, none, none] O X = (some 8, -1) := rfl

theorem mmv_3819 : minimaxL 4 [none, none, some O, none, some X, some O, some X, some X, none] O X = (some 8, -1) := rfl

theorem mmv_3821 : minimaxL 3 [none, some O, some O, none, some X, some O, some X, none, some X] X O = (some 0, 1) := rfl

theorem mmv_3822 : minimaxL 3 [none, none, some O, none, some X, some O, some X, some O, some X] X O = (some 0, 1) := rfl

theorem mmv_3820 : minimaxL 4 [none, none, some O, none, some X, some O, some X, none, some X] O X = (some 0, 1) := by
  rw [minimaxL_succ 3 [none, none, some O, none, some X, some O, some X, none, some X] O X [0, 1, 3, 7] rfl rfl (List.cons_ne_nil _ _)]
  show pickBest [(0, (minimaxL 3 [some O, none, some O, none, some X, some O, some X, none, some X] X O).2), (1, (minimaxL 3 [none, some O, some O, none, some X, some O, some X, none, some X] X O).2), (3, (minimaxL 3 [none, none, some O, some O, some X, some O, some X, none, some X] X O).2), (7, (minimaxL 3 [none, none, some O, none, some X, some O, some X, some O, some X] X O).2)] O = (some 0, 1)
  rw [mmv_3668, mmv_3821, mmv_3815, mmv_3822]
  rfl

theorem mmv_3817 : minimaxL 5 [none, none, some O, none, some X, some O, some X, none, none] X O = (some 8, 1) := by
  rw [minimaxL_succ 4 [none, none, some O, none, some X, some O, some X, none, none] X O [0, 1, 3, 7, 8] rfl rfl (List.cons_ne_nil _ _)]
  show pickBest [(0, (minimaxL 4 [some X, none, some O, none, some X, some O, some X, none, none] O X).2), (1, (minimaxL 4 [none, some X, some O, none, some X, some O, some X, none, none] O X).2), (3, (minimaxL 4 [none, none, some O, some X, some X, some O, some X, none, none] O X).2), (7, (minimaxL 4 [none, none, some O, none, some X, some O, some X, some X, none] O X).2), (8, (minimaxL 4 [none, none, some O, none, some X, some O, some X, none, some X] O X).2)] X = (some 8, 1)
  rw [mmv_3818, mmv_1905, mmv_3436, mmv_3819, mmv_3820]
  rfl

theorem mmv_3825 : minimaxL 3 [some X, none, some O, none, some X, some O, some X, some O, none] X O = (some 8, 1) := rfl

theorem mmv_3824 : minimaxL 4 [some X, none, some O, none, some X, none, some X, some O, none] O X = (some 1, 1) := by
  rw [minimaxL_succ 3 [some X, none, some O, none, some X, none, some X, some O, none] O X [1, 3, 5, 8] rfl rfl (List.cons_ne_nil _ _)]
  show pickBest [(1, (minimaxL 3 [some X, some O, some O, none, some X, none, some X, some O, none] X O).2), (3, (minimaxL 3 [some X, none, some O, some O, some X, none, some X, some O, none] X O).2), (5, (minimaxL 3 [some X, none, some O, none, some X, some O, some X, some O, none] X O).2), (8, (minimaxL 3 [some X, none, some O, none, some X, none, some X, some O, some O] X O).2)] O = (some 1, 1)
  rw [mmv_3728, mmv_0700, mmv_3825, mmv_1213]
  rfl

theorem mmv_3827 : minimaxL 3 [none, some O, some O, some X, some X, none, some X, some O, none] X O = (some 5, 1) := rfl

theorem mmv_3828 : minimaxL 3 [none, none, some O, some X, some X, none, some X, some O, some O] X O = (some 5, 1) := rfl

theorem mmv_3826 : minimaxL 4 [none, none, some O, some X, some X, none, some X, some O, none] O X = (some 0, 1) := by
  rw [minimaxL_succ 3 [none, none, some O, some X, some X, none, some X, some O, none] O X [0, 1, 5, 8] rfl rfl (List.cons_ne_nil _ _)]
  show pickBest [(0, (minimaxL 3 [some O, none, some O, some X, some X, none, some X, some O, none] X O).2), (1, (minimaxL 3 [none, some O, some O, some X, some X, none, some X, some O, none] X O).2), (5, (minimaxL 3 [none, none, some O, some X, some X, some O, some X, some O, none] X O).2), (8, (minimaxL 3 [none, none, some O, some X, some X, none, some X, some O, some O] X O).2)] O = (some 0, 1)
  rw [mmv_3213, mmv_3827, mmv_3559, mmv_3828]
  rfl

theorem mmv_3830 : minimaxL 3 [some O, none, some O, none, some X, some X, some X, some O, none] X O = (some 3, 1) := rfl

theorem mmv_3831 : minimaxL 3 [none, some O, some O, none, some X, some X, some X, some O, none] X O = (some 3, 1) := rfl

theorem mmv_3832 : minimaxL 3 [none, none, some O, none, some X, some X, some X, some O, some O] X O = (some 3, 1) := rfl

theorem mmv_3829 : minimaxL 4 [none, none, some O, none, some X, some X, some X, some O, none] O X = (some 3, 0) := by
  rw [minimaxL_succ 3 [none, none, some O, none, some X, some X, some X, some O, none] O X [0, 1, 3, 8] rfl rfl (List.cons_ne_nil _ _)]
  show pickBest [(0, (minimaxL 3 [some O, none, some O, none, some X, some X, some X, some O, none] X O).2), (1, (minimaxL 3 [none, some O, some O, none, some X, some X, some X, some O, none] X O).2), (3, (minimaxL 3 [none, none, some O, some O, some X, some X, some X, some O, none] X O).2), (8, (minimaxL 3 [none, none, some O, none, some X, some X, some X, some O, some O] X O).2)] O = (some 3, 0)
  rw [mmv_3830, mmv_3831, mmv_3788, mmv_3832]
  rfl

theorem mmv_3834 : minimaxL 3 [none, some O, some O, none, some X, none, some X, some O, some X] X O = (some 0, 1) := rfl

theorem mmv_3833 : minimaxL 4 [none, none, some O, none, some X, none, some X, some O, some X] O X = (some 0, 0) := by
  rw [minimaxL_succ 3 [none, none, some O, none, some X, none, some X, some O, some X] O X [0, 1, 3, 5] rfl rfl (List.cons_ne_nil _ _)]
  show pickBest [(0, (minimaxL 3 [some O, none, some O, none, some X, none, some X, some O, some X] X O).2), (1, (minimaxL 3 [none, some O, some O, none, some X, none, some X, some O, some X] X O).2), (3, (minimaxL 3 [none, none, some O, some O, some X, none, some X, some O, some X] X O).2), (5, (minimaxL 3 [none, none, some O, none, some X, some O, some X, some O, some X] X O).2)] O = (some 0, 0)
  rw [mmv_3688, mmv_3834, mmv_3816, mmv_3822]
  rfl

theorem mmv_3823 : minimaxL 5 [none, none, some O, none, some X, none, some X, some O, none] X O = (some 3, 1) := by
  rw [minimaxL_succ 4 [none, none, some O, none, some X, none, some X, some O, none] X O [0, 1, 3, 5, 8] rfl rfl (List.cons_ne_nil _ _)]
  show pickBest [(0, (minimaxL 4 [some X, none, some O, none, some X, none, some X, some O, none] O X).2), (1, (minimaxL 4 [none, some X, some O, none, some X, none, some X, some O, none] O X).2), (3, (minimaxL 4 [none, none, some O, some X, some X, none, some X, some O, none] O X).2), (5, (minimaxL 4 [none, none, some O, none, some X, some X, some X, some O, none] O X).2), (8, (minimaxL 4 [none, none, some O, none, some X, none, some X, some O, some X] O X).2)] X = (some 3, 1)
  rw [mmv_3824, mmv_1814, mmv_3826, mmv_3829, mmv_3833]
  rfl

theorem mmv_3836 : minimaxL 4 [none, none, some O, some X, some X, none, some X, none, some O] O X = (some 5, -1) := rfl

theorem mmv_3838 : minimaxL 3 [some O, none, some O, none, some X, some X, some X, none, some O] X O = (some 3, 1) := rfl

theorem mmv_3839 : minimaxL 3 [none, some O, some O, none, some X, some X, some X, none, some O] X O = (some 3, 1) := rfl

theorem mmv_3837 : minimaxL 4 [none, none, some O, none, some X, some X, some X, none, some O] O X = (some 3, 0) := by
  rw [minimaxL_succ 3 [none, none, some O, none, some X, some X, some X, none, some O] O X [0, 1, 3, 7] rfl rfl (List.cons_ne_nil _ _)]
  show pickBest [(0, (minimaxL 3 [some O, none, some O, none, some X, some X, some X, none, some O] X O).2), (1, (minimaxL 3 [none, some O, some O, none, some X, some X, some X, none, some O] X O).2), (3, (minimaxL 3 [none, none, some O, some O, some X, some X, some X, none, some O] X O).2), (7, (minimaxL 3 [none, none, some O, none, some X, some X, some X, some O, some O] X O).2)] O = (some 3, 0)
  rw [mmv_3838, mmv_3839, mmv_3792, mmv_3832]
  rfl

theorem mmv_3840 : minimaxL 4 [none, none, some O, none, some X, none, some X, some X, some O] O X = (some 5, -1) := rfl

theorem mmv_3835 : minimaxL 5 [none, none, some O, none, some X, none, some X, none, some O] X O = (some 5, 0) := by
  rw [minimaxL_succ 4 [none, none, some O, none, some X, none, some X, none, some O] X O [0, 1, 3, 5, 7] rfl rfl (List.cons_ne_nil _ _)]
  show pickBest [(0, (minimaxL 4 [some X, none, some O, none, some X, none, some X, none, some O] O X).2), (1, (minimaxL 4 [none, some X, some O, none, some X, none, some X, none, some O] O X).2), (3, (minimaxL 4 [none, none, some O, some X, some X, none, some X, none, some O] O X).2), (5, (minimaxL 4 [none, none, some O, none, some X, some X, some X, none, some O] O X).2), (7, (minimaxL 4 [none, none, some O, none, some X, none, some X, some X, some O] O X).2)] X = (some 5, 0)
  rw [mmv_0630, mmv_1913, mmv_3836, mmv_3837, mmv_3840]
  rfl

theorem mmv_3807 : minimaxL 6 [none, none, some O, none, some X, none, some X, none, none] O X = (some 0, 0) := by
  rw [minimaxL_succ 5 [none, none, some O, none, some X, none, some X, none, none] O X [0, 1, 3, 5, 7, 8] rfl rfl (List.cons_ne_nil _ _)]
  show pickBest [(0, (minimaxL 5 [some O, none, some O, none, some X, none, some X, none, none] X O).2), (1, (minimaxL 5 [none, some O, some O, none, some X, none, some X, none, none] X O).2), (3, (minimaxL 5 [none, none, some O, some O, some X, none, some X, none, none] X O).2), (5, (minimaxL 5 [none, none, some O, none, some X, some O, some X, none, none] X O).2), (7, (minimaxL 5 [none, none, some O, none, some X, none, some X, some O, none] X O).2), (8, (minimaxL 5 [none, none, some O, none, some X, none, some X, none, some O] X O).2)] O = (some 0, 0)
  rw [mmv_3629, mmv_3725, mmv_3808, mmv_3817, mmv_3823, mmv_3835]
  rfl

theorem mmv_3842 : minimaxL 5 [none, none, some O, some O, some X, none, none, some X, none] X O = (some 1, 1) := rfl

theorem mmv_3843 : minimaxL 5 [none, none, some O, none, some X, some O, none, some X, none] X O = (some 1, 1) := rfl

theorem mmv_3844 : minimaxL 5 [none, none, some O, none, some X, none, some O, some X, none] X O = (some 1, 1) := rfl

theorem mmv_3845 : minimaxL 5 [none, none, some O, none, some X, none, none, some X, some O] X O = (some 1, 1) := rfl

theorem mmv_3841 : minimaxL 6 [none, none, some O, none, some X, none, none, some X, none] O X = (some 1, 0) := by
  rw [minimaxL_succ 5 [none, none, some O, none, some X, none, none, some X, none] O X [0, 1, 3, 5, 6, 8] rfl rfl (List.cons_ne_nil _ _)]
  show pickBest [(0, (minimaxL 5 [some O, none, some O, none, some X, none, none, some X, none] X O).2), (1, (minimaxL 5 [none, some O, some O, none, some X, none, none, some X, none] X O).2), (3, (minimaxL 5 [none, none, some O, some O, some X, none, none, some X, none] X O).2), (5, (minimaxL 5 [none, none, some O, none, some X, some O, none, some X, none] X O).2), (6, (minimaxL 5 [none, none, some O, none, some X, none, some O, some X, none] X O).2), (8, (minimaxL 5 [none, none, some O, none, some X, none, none, some X, some O] X O).2)] O = (some 1, 0)
  rw [mmv_3642, mmv_3738, mmv_3842, mmv_3843, mmv_3844, mmv_3845]
  rfl

theorem mmv_3847 : minimaxL 5 [none, none, some O, some O, some X, none, none, none, some X] X O = (some 0, 1) := rfl

theorem mmv_3848 : minimaxL 5 [none, none, some O, none, some X, some O, none, none, some X] X O = (some 0, 1) := rfl

theorem mmv_3849 : minimaxL 5 [none, none, some O, none, some X, none, some O, none, some X] X O = (some 0, 1) := rfl

theorem mmv_3850 : minimaxL 5 [none, none, some O, none, some X, none, none, some O, some X] X O = (some 0, 1) := rfl

theorem mmv_3846 : minimaxL 6 [none, none, some O, none, some X, none, none, none, some X] O X = (some 0, 0) := by
  rw [minimaxL_succ 5 [none, none, some O, none, some X, none, none, none, some X] O X [0, 1, 3, 5, 6, 7] rfl rfl (List.cons_ne_nil _ _)]
  show pickBest [(0, (minimaxL 5 [some O, none, some O, none, some X, none, none, none, some X] X O).2), (1, (minimaxL 5 [none, some O, some O, none, some X, none, none, none, some X] X O).2), (3, (minimaxL 5 [none, none, some O, some O, some X, none, none, none, some X] X O).2), (5, (minimaxL 5 [none, none, some O, none, some X, some O, none, none, some X] X O).2), (6, (minimaxL 5 [none, none, some O, none, some X, none, some O, none, some X] X O).2), (7, (minimaxL 5 [none, none, some O, none, some X, none, none, some O, some X] X O).2)] O = (some 0, 0)
  rw [mmv_3654, mmv_3779, mmv_3847, mmv_3848, mmv_3849, mmv_3850]
  rfl

theorem mmv_3784 : minimaxL 7 [none, none, some O, none, some X, none, none, none, none] X O = (some 8, 0) := by
  rw [minimaxL_succ 6 [none, none, some O, none, some X, none, none, none, none] X O [0, 1, 3, 5, 6, 7, 8] rfl rfl (List.cons_ne_nil _ _)]
  show pickBest [(0, (minimaxL 6 [some X, none, some O, none, some X, none, none, none, none] O X).2), (1, (minimaxL 6 [none, some X, some O, none, some X, none, none, none, none] O X).2), (3, (minimaxL 6 [none, none, some O, some X, some X, none, none, none, none] O X).2), (5, (minimaxL 6 [none, none, some O, none, some X, some X, none, none, none] O X).2), (6, (minimaxL 6 [none, none, some O, none, some X, none, some X, none, none] O X).2), (7, (minimaxL 6 [none, none, some O, none, some X, none, none, some X, none] O X).2), (8, (minimaxL 6 [none, none, some O, none, some X, none, none, none, some X] O X).2)] X = (some 8, 0)
  rw [mmv_0615, mmv_1801, mmv_3433, mmv_3785, mmv_3807, mmv_3841, mmv_3846]
  rfl

theorem mmv_3854 : minimaxL 4 [none, none, none, some O, some X, some X, some O, some X, none] O X = (some 0, -1) := rfl

theorem mmv_3855 : minimaxL 4 [none, none, none, some O, some X, some X, some O, none, some X] O X = (some 0, -1) := rfl

theorem mmv_3853 : minimaxL 5 [none, none, none, some O, some X, some X, some O, none, none] X O = (some 0, 0) := by
  rw [minimaxL_succ 4 [none, none, none, some O, some X, some X, some O, none, none] X O [0, 1, 2, 7, 8] rfl rfl (List.cons_ne_nil _ _)]
  show pickBest [(0, (minimaxL 4 [some X, none, none, some O, some X, some X, some O, none, none] O X).2), (1, (minimaxL 4 [none, some X, none, some O, some X, some X, some O, none, none] O X).2), (2, (minimaxL 4 [none, none, some X, some O, some X, some X, some O, none, none] O X).2), (7, (minimaxL 4 [none, none, none, some O, some X, some X, some O, some X, none] O X).2), (8, (minimaxL 4 [none, none, none, some O, some X, some X, some O, none, some X] O X).2)] X = (some 0, 0)
  rw [mmv_0839, mmv_2004, mmv_2838, mmv_3854, mmv_3855]
  rfl

theorem mmv_3858 : minimaxL 3 [some O, none, some X, some O, some X, some X, none, some O, none] X O = (some 6, 1) := rfl

theorem mmv_3859 : minimaxL 3 [none, none, some X, some O, some X, some X, some O, some O, none] X O = (some 8, 1) := rfl

theorem mmv_3857 : minimaxL 4 [none, none, some X, some O, some X, some X, none, some O, none] O X = (some 0, 1) := by
  rw [minimaxL_succ 3 [none, none, some X, some O, some X, some X, none, some O, none] O X [0, 1, 6, 8] rfl rfl (List.cons_ne_nil _ _)]
  show pickBest [(0, (minimaxL 3 [some O, none, some X, some O, some X, some X, none, some O, none] X O).2), (1, (minimaxL 3 [none, some O, some X, some O, some X, some X, none, some O, none] X O).2), (6, (minimaxL 3 [none, none, some X, some O, some X, some X, some O, some O, none] X O).2), (8, (minimaxL 3 [none, none, some X, some O, some X, some X, none, some O, some O] X O).2)] O = (some 0, 1)
  rw [mmv_3858, mmv_3696, mmv_3859, mmv_2852]
  rfl

theorem mmv_3861 : minimaxL 3 [none, none, none, some O, some X, some X, some X, some O, some O] X O = (some 2, 1) := rfl

theorem mmv_3860 : minimaxL 4 [none, none, none, some O, some X, some X, some X, some O, none] O X = (some 2, 0) := by
  rw [minimaxL_succ 3 [none, none, none, some O, some X, some X, some X, some O, none] O X [0, 1, 2, 8] rfl rfl (List.cons_ne_nil _ _)]
  show pickBest [(0, (minimaxL 3 [some O, none, none, some O, some X, some X, some X, some O, none] X O).2), (1, (minimaxL 3 [none, some O, none, some O, some X, some X, some X, some O, none] X O).2), (2, (minimaxL 3 [none, none, some O, some O, some X, some X, some X, some O, none] X O).2), (8, (minimaxL 3 [none, none, none, some O, some X, some X, some X, some O, some O] X O).2)] O = (some 2, 0)
  rw [mmv_3620, mmv_3701, mmv_3788, mmv_3861]
  rfl

theorem mmv_3863 : minimaxL 3 [none, none, none, some O, some X, some X, some O, some O, some X] X O = (some 0, 1) := rfl

theorem mmv_3862 : minimaxL 4 [none, none, none, some O, some X, some X, none, some O, some X] O X = (some 0, 1) := by
  rw [minimaxL_succ 3 [none, none, none, some O, some X, some X, none, some O, some X] O X [0, 1, 2, 6] rfl rfl (List.cons_ne_nil _ _)]
  show pickBest [(0, (minimaxL 3 [some O, none, none, some O, some X, some X, none, some O, some X] X O).2), (1, (minimaxL 3 [none, some O, none, some O, some X, some X, none, some O, some X] X O).2), (2, (minimaxL 3 [none, none, some O, some O, some X, some X, none, some O, some X] X O).2), (6, (minimaxL 3 [none, none, none, some O, some X, some X, some O, some O, some X] X O).2)] O = (some 0, 1)
  rw [mmv_3684, mmv_3720, mmv_3803, mmv_3863]
  rfl

theorem mmv_3856 : minimaxL 5 [none, none, none, some O, some X, some X, none, some O, none] X O = (some 8, 1) := by
  rw [minimaxL_succ 4 [none, none, none, some O, some X, some X, none, some O, none] X O [0, 1, 2, 6, 8] rfl rfl (List.cons_ne_nil _ _)]
  show pickBest [(0, (minimaxL 4 [some X, none, none, some O, some X, some X, none, some O, none] O X).2), (1, (minimaxL 4 [none, some X, none, some O, some X, some X, none, some O, none] O X).2), (2, (minimaxL 4 [none, none, some X, some O, some X, some X, none, some O, none] O X).2), (6, (minimaxL 4 [none, none, none, some O, some X, some X, some X, some O, none] O X).2), (8, (minimaxL 4 [none, none, none, some O, some X, some X, none, some O, some X] O X).2)] X = (some 8, 1)
  rw [mmv_0852, mmv_1960, mmv_3857, mmv_3860, mmv_3862]
  rfl

theorem mmv_3865 : minimaxL 4 [none, none, none, some O, some X, some X, some X, none, some O] O X = (some 2, 0) := by
  rw [minimaxL_succ 3 [none, none, none, some O, some X, some X, some X, none, some O] O X [0, 1, 2, 7] rfl rfl (List.cons_ne_nil _ _)]
  show pickBest [(0, (minimaxL 3 [some O, none, none, some O, some X, some X, some X, none, some O] X O).2), (1, (minimaxL 3 [none, some O, none, some O, some X, some X, some X, none, some O] X O).2), (2, (minimaxL 3 [none, none, some O, some O, some X, some X, some X, none, some O] X O).2), (7, (minimaxL 3 [none, none, none, some O, some X, some X, some X, some O, some O] X O).2)] O = (some 2, 0)
  rw [mmv_3621, mmv_3702, mmv_3792, mmv_3861]
  rfl

theorem mmv_3867 : minimaxL 3 [some O, none, none, some O, some X, some X, none, some X, some O] X O = (some 1, 1) := rfl

theorem mmv_3868 : minimaxL 3 [none, none, none, some O, some X, some X, some O, some X, some O] X O = (some 1, 1) := rfl

theorem mmv_3866 : minimaxL 4 [none, none, none, some O, some X, some X, none, some X, some O] O X = (some 1, 0) := by
  rw [minimaxL_succ 3 [none, none, none, some O, some X, some X, none, some X, some O] O X [0, 1, 2, 6] rfl rfl (List.cons_ne_nil _ _)]
  show pickBest [(0, (minimaxL 3 [some O, none, none, some O, some X, some X, none, some X, some O] X O).2), (1, (minimaxL 3 [none, some O, none, some O, some X, some X, none, some X, some O] X O).2), (2, (minimaxL 3 [none, none, some O, some O, some X, some X, none, some X, some O] X O).2), (6, (minimaxL 3 [none, none, none, some O, some X, some X, some O, some X, some O] X O).2)] O = (some 1, 0)
  rw [mmv_3867, mmv_3712, mmv_3798, mmv_3868]
  rfl

theorem mmv_3864 : minimaxL 5 [none, none, none, some O, some X, some X, none, none, some O] X O = (some 7, 0) := by
  rw [minimaxL_succ 4 [none, none, none, some O, some X, some X, none, none, some O] X O [0, 1, 2, 6, 7] rfl rfl (List.cons_ne_nil _ _)]
  show pickBest [(0, (minimaxL 4 [some X, none, none, some O, some X, some X, none, none, some O] O X).2), (1, (minimaxL 4 [none, some X, none, some O, some X, some X, none, none, some O] O X).2), (2, (minimaxL 4 [none, none, some X, some O, some X, some X, none, none, some O] O X).2), (6, (minimaxL 4 [none, none, none, some O, some X, some X, some X, none, some O] O X).2), (7, (minimaxL 4 [none, none, none, some O, some X, some X, none, some X, some O] O X).2)] X = (some 7, 0)
  rw [mmv_0783, mmv_2022, mmv_2848, mmv_3865, mmv_3866]
  rfl

theorem mmv_3852 : minimaxL 6 [none, none, none, some O, some X, some X, none, none, none] O X = (some 0, 0) := by
  rw [minimaxL_succ 5 [none, none, none, some O, some X, some X, none, none, none] O X [0, 1, 2, 6, 7, 8] rfl rfl (List.cons_ne_nil _ _)]
  show pickBest [(0, (minimaxL 5 [some O, none, none, some O, some X, some X, none, none, none] X O).2), (1, (minimaxL 5 [none, some O, none, some O, some X, some X, none, none, none] X O).2), (2, (minimaxL 5 [none, none, some O, some O, some X, some X, none, none, none] X O).2), (6, (minimaxL 5 [none, none, none, some O, some X, some X, some O, none, none] X O).2), (7, (minimaxL 5 [none, none, none, some O, some X, some X, none, some O, none] X O).2), (8, (minimaxL 5 [none, none, none, some O, some X, some X, none, none, some O] X O).2)] O = (some 0, 0)
  rw [mmv_3613, mmv_3693, mmv_3786, mmv_3853, mmv_3856, mmv_3864]
  rfl

theorem mmv_3870 : minimaxL 5 [none, none, none, some O, some X, some O, some X, none, none] X O = (some 2, 1) := rfl

theorem mmv_3871 : minimaxL 5 [none, none, none, some O, some X, none, some X, some O, none] X O = (some 2, 1) := rfl

theorem mmv_3872 : minimaxL 5 [none, none, none, some O, some X, none, some X, none, some O] X O = (some 2, 1) := rfl

theorem mmv_3869 : minimaxL 6 [none, none, none, some O, some X, none, some X, none, none] O X = (some 0, 1) := by
  rw [minimaxL_succ 5 [none, none, none, some O, some X, none, some X, none, none] O X [0, 1, 2, 5, 7, 8] rfl rfl (List.cons_ne_nil _ _)]
  show pickBest [(0, (minimaxL 5 [some O, none, none, some O, some X, none, some X, none, none] X O).2), (1, (minimaxL 5 [none, some O, none, some O, some X, none, some X, none, none] X O).2), (2, (minimaxL 5 [none, none, some O, some O, some X, none, some X, none, none] X O).2), (5, (minimaxL 5 [none, none, none, some O, some X, some O, some X, none, none] X O).2), (7, (minimaxL 5 [none, none, none, some O, some X, none, some X, some O, none] X O).2), (8, (minimaxL 5 [none, none, none, some O, some X, none, some X, none, some O] X O).2)] O = (some 0, 1)
  rw [mmv_3633, mmv_3733, mmv_3808, mmv_3870, mmv_3871, mmv_3872]
  rfl

theorem mmv_3874 : minimaxL 5 [none, none, none, some O, some X, some O, none, some X, none] X O = (some 1, 1) := rfl

theorem mmv_3875 : minimaxL 5 [none, none, none, some O, some X, none, some O, some X, none] X O = (some 1, 1) := rfl

theorem mmv_3876 : minimaxL 5 [none, none, none, some O, some X, none, none, some X, some O] X O = (some 1, 1) := rfl

theorem mmv_3873 : minimaxL 6 [none, none, none, some O, some X, none, none, some X, none] O X = (some 0, 1) := by
  rw [minimaxL_succ 5 [none, none, none, some O, some X, none, none, some X, none] O X [0, 1, 2, 5, 6, 8] rfl rfl (List.cons_ne_nil _ _)]
  show pickBest [(0, (minimaxL 5 [some O, none, none, some O, some X, none, none, some X, none] X O).2), (1, (minimaxL 5 [none, some O, none, some O, some X, none, none, some X, none] X O).2), (2, (minimaxL 5 [none, none, some O, some O, some X, none, none, some X, none] X O).2), (5, (minimaxL 5 [none, none, none, some O, some X, some O, none, some X, none] X O).2), (6, (minimaxL 5 [none, none, none, some O, some X, none, some O, some X, none] X O).2), (8, (minimaxL 5 [none, none, none, some O, some X, none, none, some X, some O] X O).2)] O = (some 0, 1)
  rw [mmv_3643, mmv_3741, mmv_3842, mmv_3874, mmv_3875, mmv_3876]
  rfl

theorem mmv_3878 : minimaxL 5 [none, none, none, some O, some X, some O, none, none, some X] X O = (some 0, 1) := rfl

theorem mmv_3879 : minimaxL 5 [none, none, none, some O, some X, none, some O, none, some X] X O = (some 0, 1) := rfl

theorem mmv_3880 : minimaxL 5 [none, none, none, some O, some X, none, none, some O, some X] X O = (some 0, 1) := rfl

theorem mmv_3877 : minimaxL 6 [none, none, none, some O, some X, none, none, none, some X] O X = (some 0, 1) := by
  rw [minimaxL_succ 5 [none, none, none, some O, some X, none, none, none, some X] O X [0, 1, 2, 5, 6, 7] rfl rfl (List.cons_ne_nil _ _)]
  show pickBest [(0, (minimaxL 5 [some O, none, none, some O, some X, none, none, none, some X] X O).2), (1, (minimaxL 5 [none, some O, none, some O, some X, none, none, none, some X] X O).2), (2, (minimaxL 5 [none, none, some O, some O, some X, none, none, none, some X] X O).2), (5, (minimaxL 5 [none, none, none, some O, some X, some O, none, none, some X] X O).2), (6, (minimaxL 5 [none, none, none, some O, some X, none, some O, none, some X] X O).2), (7, (minimaxL 5 [none, none, none, some O, some X, none, none, some O, some X] X O).2)] O = (some 0, 1)
  rw [mmv_3657, mmv_3780, mmv_3847, mmv_3878, mmv_3879, mmv_3880]
  rfl

theorem mmv_3851 : minimaxL 7 [none, none, none, some O, some X, none, none, none, none] X O = (some 8, 1) := by
  rw [minimaxL_succ 6 [none, none, none, some O, some X, none, none, none, none] X O [0, 1, 2, 5, 6, 7, 8] rfl rfl (List.cons_ne_nil _ _)]
  show pickBest [(0, (minimaxL 6 [some X, none, none, some O, some X, none, none, none, none] O X).2), (1, (minimaxL 6 [none, some X, none, some O, some X, none, none, none, none] O X).2), (2, (minimaxL 6 [none, none, some X, some O, some X, none, none, none, none] O X).2), (5, (minimaxL 6 [none, none, none, some O, some X, some X, none, none, none] O X).2), (6, (minimaxL 6 [none, none, none, some O, some X, none, some X, none, none] O X).2), (7, (minimaxL 6 [none, none, none, some O, some X, none, none, some X, none] O X).2), (8, (minimaxL 6 [none, none, none, some O, some X, none, none, none, some X] O X).2)] X = (some 8, 1)
  rw [mmv_0770, mmv_1949, mmv_2831, mmv_3852, mmv_3869, mmv_3873, mmv_3877]
  rfl

theorem mmv_3883 : minimaxL 5 [none, none, none, none, some X, some O, some X, some O, none] X O = (some 2, 1) := rfl

theorem mmv_3884 : minimaxL 5 [none, none, none, none, some X, some O, some X, none, some O] X O = (some 2, 1) := rfl

theorem mmv_3882 : minimaxL 6 [none, none, none, none, some X, some O, some X, none, none] O X = (some 0, 1) := by
  rw [minimaxL_succ 5 [none, none, none, none, some X, some O, some X, none, none] O X [0, 1, 2, 3, 7, 8] rfl rfl (List.cons_ne_nil _ _)]
  show pickBest [(0, (minimaxL 5 [some O, none, none, none, some X, some O, some X, none, none] X O).2), (1, (minimaxL 5 [none, some O, none, none, some X, some O, some X, none, none] X O).2), (2, (minimaxL 5 [none, none, some O, none, some X, some O, some X, none, none] X O).2), (3, (minimaxL 5 [none, none, none, some O, some X, some O, some X, none, none] X O).2), (7, (minimaxL 5 [none, none, none, none, some X, some O, some X, some O, none] X O).2), (8, (minimaxL 5 [none, none, none, none, some X, some O, some X, none, some O] X O).2)] O = (some 0, 1)
  rw [mmv_3634, mmv_3734, mmv_3817, mmv_3870, mmv_3883, mmv_3884]
  rfl

theorem mmv_3886 : minimaxL 5 [none, none, none, none, some X, some O, some O, some X, none] X O = (some 1, 1) := rfl

theorem mmv_3887 : minimaxL 5 [none, none, none, none, some X, some O, none, some X, some O] X O = (some 1, 1) := rfl

theorem mmv_3885 : minimaxL 6 [none, none, none, none, some X, some O, none, some X, none] O X = (some 0, 1) := by
  rw [minimaxL_succ 5 [none, none, none, none, some X, some O, none, some X, none] O X [0, 1, 2, 3, 6, 8] rfl rfl (List.cons_ne_nil _ _)]
  show pickBest [(0, (minimaxL 5 [some O, none, none, none, some X, some O, none, some X, none] X O).2), (1, (minimaxL 5 [none, some O, none, none, some X, some O, none, some X, none] X O).2), (2, (minimaxL 5 [none, none, some O, none, some X, some O, none, some X, none] X O).2), (3, (minimaxL 5 [none, none, none, some O, some X, some O, none, some X, none] X O).2), (6, (minimaxL 5 [none, none, none, none, some X, some O, some O, some X, none] X O).2), (8, (minimaxL 5 [none, none, none, none, some X, some O, none, some X, some O] X O).2)] O = (some 0, 1)
  rw [mmv_3644, mmv_3752, mmv_3843, mmv_3874, mmv_3886, mmv_3887]
  rfl

theorem mmv_3889 : minimaxL 5 [none, none, none, none, some X, some O, some O, none, some X] X O = (some 0, 1) := rfl

theorem mmv_3890 : minimaxL 5 [none, none, none, none, some X, some O, none, some O, some X] X O = (some 0, 1) := rfl

theorem mmv_3888 : minimaxL 6 [none, none, none, none, some X, some O, none, none, some X] O X = (some 0, 1) := by
  rw [minimaxL_succ 5 [none, none, none, none, some X, some O, none, none, some X] O X [0, 1, 2, 3, 6, 7] rfl rfl (List.cons_ne_nil _ _)]
  show pickBest [(0, (minimaxL 5 [some O, none, none, none, some X, some O, none, none, some X] X O).2), (1, (minimaxL 5 [none, some O, none, none, some X, some O, none, none, some X] X O).2), (2, (minimaxL 5 [none, none, some O, none, some X, some O, none, none, some X] X O).2), (3, (minimaxL 5 [none, none, none, some O, some X, some O, none, none, some X] X O).2), (6, (minimaxL 5 [none, none, none, none, some X, some O, some O, none, some X] X O).2), (7, (minimaxL 5 [none, none, none, none, some X, some O, none, some O, some X] X O).2)] O = (some 0, 1)
  rw [mmv_3665, mmv_3781, mmv_3848, mmv_3878, mmv_3889, mmv_3890]
  rfl

theorem mmv_3881 : minimaxL 7 [none, none, none, none, some X, some O, none, none, none] X O = (some 8, 1) := by
  rw [minimaxL_succ 6 [none, none, none, none, some X, some O, none, none, none] X O [0, 1, 2, 3, 6, 7, 8] rfl rfl (List.cons_ne_nil _ _)]
  show pickBest [(0, (minimaxL 6 [some X, none, none, none, some X, some O, none, none, none] O X).2), (1, (minimaxL 6 [none, some X, none, none, some X, some O, none, none, none] O X).2), (2, (minimaxL 6 [none, none, some X, none, some X, some O, none, none, none] O X).2), (3, (minimaxL 6 [none, none, none, some X, some X, some O, none, none, none] O X).2), (6, (minimaxL 6 [none, none, none, none, some X, some O, some X, none, none] O X).2), (7, (minimaxL 6 [none, none, none, none, some X, some O, none, some X, none] O X).2), (8, (minimaxL 6 [none, none, none, none, some X, some O, none, none, some X] O X).2)] X = (some 8, 1)
  rw [mmv_1110, mmv_2276, mmv_3019, mmv_3548, mmv_3882, mmv_3885, mmv_3888]
  rfl

theorem mmv_3893 : minimaxL 5 [none, none, none, none, some X, some X, some O, some O, none] X O = (some 3, 1) := rfl

theorem mmv_3894 : minimaxL 5 [none, none, none, none, some X, some X, some O, none, some O] X O = (some 3, 1) := rfl

theorem mmv_3892 : minimaxL 6 [none, none, none, none, some X, some X, some O, none, none] O X = (some 3, 0) := by
  rw [minimaxL_succ 5 [none, none, none, none, some X, some X, some O, none, none] O X [0, 1, 2, 3, 7, 8] rfl rfl (List.cons_ne_nil _ _)]
  show pickBest [(0, (minimaxL 5 [some O, none, none, none, some X, some X, some O, none, none] X O).2), (1, (minimaxL 5 [none, some O, none, none, some X, some X, some O, none, none] X O).2), (2, (minimaxL 5 [none, none, some O, none, some X, some X, some O, none, none] X O).2), (3, (minimaxL 5 [none, none, none, some O, some X, some X, some O, none, none] X O).2), (7, (minimaxL 5 [none, none, none, none, some X, some X, some O, some O, none] X O).2), (8, (minimaxL 5 [none, none, none, none, some X, some X, some O, none, some O] X O).2)] O = (some 3, 0)
  rw [mmv_3624, mmv_3721, mmv_3804, mmv_3853, mmv_3893, mmv_3894]
  rfl

theorem mmv_3896 : minimaxL 5 [none, none, none, none, some X, none, some O, some X, some O] X O = (some 1, 1) := rfl

theorem mmv_3895 : minimaxL 6 [none, none, none, none, some X, none, some O, some X, none] O X = (some 1, 0) := by
  rw [minimaxL_succ 5 [none, none, none, none, some X, none, some O, some X, none] O X [0, 1, 2, 3, 5, 8] rfl rfl (List.cons_ne_nil _ _)]
  show pickBest [(0, (minimaxL 5 [some O, none, none, none, some X, none, some O, some X, none] X O).2), (1, (minimaxL 5 [none, some O, none, none, some X, none, some O, some X, none] X O).2), (2, (minimaxL 5 [none, none, some O, none, some X, none, some O, some X, none] X O).2), (3, (minimaxL 5 [none, none, none, some O, some X, none, some O, some X, none] X O).2), (5, (minimaxL 5 [none, none, none, none, some X, some O, some O, some X, none] X O).2), (8, (minimaxL 5 [none, none, none, none, some X, none, some O, some X, some O] X O).2)] O = (some 1, 0)
  rw [mmv_3645, mmv_3760, mmv_3844, mmv_3875, mmv_3886, mmv_3896]
  rfl

theorem mmv_3898 : minimaxL 5 [none, none, none, none, some X, none, some O, some O, some X] X O = (some 0, 1) := rfl

theorem mmv_3897 : minimaxL 6 [none, none, none, none, some X, none, some O, none, some X] O X = (some 0, 0) := by
  rw [minimaxL_succ 5 [none, none, none, none, some X, none, some O, none, some X] O X [0, 1, 2, 3, 5, 7] rfl rfl (List.cons_ne_nil _ _)]
  show pickBest [(0, (minimaxL 5 [some O, none, none, none, some X, none, some O, none, some X] X O).2), (1, (minimaxL 5 [none, some O, none, none, some X, none, some O, none, some X] X O).2), (2, (minimaxL 5 [none, none, some O, none, some X, none, some O, none, some X] X O).2), (3, (minimaxL 5 [none, none, none, some O, some X, none, some O, none, some X] X O).2), (5, (minimaxL 5 [none, none, none, none, some X, some O, some O, none, some X] X O).2), (7, (minimaxL 5 [none, none, none, none, some X, none, some O, some O, some X] X O).2)] O = (some 0, 0)
  rw [mmv_3675, mmv_3782, mmv_3849, mmv_3879, mmv_3889, mmv_3898]
  rfl

theorem mmv_3891 : minimaxL 7 [none, none, none, none, some X, none, some O, none, none] X O = (some 8, 0) := by
  rw [minimaxL_succ 6 [none, none, none, none, some X, none, some O, none, none] X O [0, 1, 2, 3, 5, 7, 8] rfl rfl (List.cons_ne_nil _ _)]
  show pickBest [(0, (minimaxL 6 [some X, none, none, none, some X, none, some O, none, none] O X).2), (1, (minimaxL 6 [none, some X, none, none, some X, none, some O, none, none] O X).2), (2, (minimaxL 6 [none, none, some X, none, some X, none, some O, none, none] O X).2), (3, (minimaxL 6 [none, none, none, some X, some X, none, some O, none, none] O X).2), (5, (minimaxL 6 [none, none, none, none, some X, some X, some O, none, none] O X).2), (7, (minimaxL 6 [none, none, none, none, some X, none, some O, some X, none] O X).2), (8, (minimaxL 6 [none, none, none, none, some X, none, some O, none, some X] O X).2)] X = (some 8, 0)
  rw [mmv_1174, mmv_2341, mmv_3077, mmv_3579, mmv_3892, mmv_3895, mmv_3897]
  rfl

theorem mmv_3901 : minimaxL 5 [none, none, none, none, some X, some X, none, some O, some O] X O = (some 3, 1) := rfl

theorem mmv_3900 : minimaxL 6 [none, none, none, none, some X, some X, none, some O, none] O X = (some 0, 1) := by
  rw [minimaxL_succ 5 [none, none, none, none, some X, some X, none, some O, none] O X [0, 1, 2, 3, 6, 8] rfl rfl (List.cons_ne_nil _ _)]
  show pickBest [(0, (minimaxL 5 [some O, none, none, none, some X, some X, none, some O, none] X O).2), (1, (minimaxL 5 [none, some O, none, none, some X, some X, none, some O, none] X O).2), (2, (minimaxL 5 [none, none, some O, none, some X, some X, none, some O, none] X O).2), (3, (minimaxL 5 [none, none, none, some O, some X, some X, none, some O, none] X O).2), (6, (minimaxL 5 [none, none, none, none, some X, some X, some O, some O, none] X O).2), (8, (minimaxL 5 [none, none, none, none, some X, some X, none, some O, some O] X O).2)] O = (some 0, 1)
  rw [mmv_3625, mmv_3722, mmv_3805, mmv_3856, mmv_3893, mmv_3901]
  rfl

theorem mmv_3903 : minimaxL 5 [none, none, none, none, some X, none, some X, some O, some O] X O = (some 2, 1) := rfl

theorem mmv_3902 : minimaxL 6 [none, none, none, none, some X, none, some X, some O, none] O X = (some 0, 1) := by
  rw [minimaxL_succ 5 [none, none, none, none, some X, none, some X, some O, none] O X [0, 1, 2, 3, 5, 8] rfl rfl (List.cons_ne_nil _ _)]
  show pickBest [(0, (minimaxL 5 [some O, none, none, none, some X, none, some X, some O, none] X O).2), (1, (minimaxL 5 [none, some O, none, none, some X, none, some X, some O, none] X O).2), (2, (minimaxL 5 [none, none, some O, none, some X, none, some X, some O, none] X O).2), (3, (minimaxL 5 [none, none, none, some O, some X, none, some X, some O, none] X O).2), (5, (minimaxL 5 [none, none, none, none, some X, some O, some X, some O, none] X O).2), (8, (minimaxL 5 [none, none, none, none, some X, none, some X, some O, some O] X O).2)] O = (some 0, 1)
  rw [mmv_3635, mmv_3735, mmv_3823, mmv_3871, mmv_3883, mmv_3903]
  rfl

theorem mmv_3904 : minimaxL 6 [none, none, none, none, some X, none, none, some O, some X] O X = (some 0, 1) := by
  rw [minimaxL_succ 5 [none, none, none, none, some X, none, none, some O, some X] O X [0, 1, 2, 3, 5, 6] rfl rfl (List.cons_ne_nil _ _)]
  show pickBest [(0, (minimaxL 5 [some O, none, none, none, some X, none, none, some O, some X] X O).2), (1, (minimaxL 5 [none, some O, none, none, some X, none, none, some O, some X] X O).2), (2, (minimaxL 5 [none, none, some O, none, some X, none, none, some O, some X] X O).2), (3, (minimaxL 5 [none, none, none, some O, some X, none, none, some O, some X] X O).2), (5, (minimaxL 5 [none, none, none, none, some X, some O, none, some O, some X] X O).2), (6, (minimaxL 5 [none, none, none, none, some X, none, some O, some O, some X] X O).2)] O = (some 0, 1)
  rw [mmv_3678, mmv_3783, mmv_3850, mmv_3880, mmv_3890, mmv_3898]
  rfl

theorem mmv_3899 : minimaxL 7 [none, none, none, none, some X, none, none, some O, none] X O = (some 8, 1) := by
  rw [minimaxL_succ 6 [none, none, none, none, some X, none, none, some O, none] X O [0, 1, 2, 3, 5, 6, 8] rfl rfl (List.cons_ne_nil _ _)]
  show pickBest [(0, (minimaxL 6 [some X, none, none, none, some X, none, none, some O, none] O X).2), (1, (minimaxL 6 [none, some X, none, none, some X, none, none, some O, none] O X).2), (2, (minimaxL 6 [none, none, some X, none, some X, none, none, some O, none] O X).2), (3, (minimaxL 6 [none, none, none, some X, some X, none, none, some O, none] O X).2), (5, (minimaxL 6 [none, none, none, none, some X, some X, none, some O, none] O X).2), (6, (minimaxL 6 [none, none, none, none, some X, none, some X, some O, none] O X).2), (8, (minimaxL 6 [none, none, none, none, some X, none, none, some O, some X] O X).2)] X = (some 8, 1)
  rw [mmv_1206, mmv_2375, mmv_3109, mmv_3596, mmv_3900, mmv_3902, mmv_3904]
  rfl

theorem mmv_3906 : minimaxL 6 [none, none, none, none, some X, some X, none, none, some O] O X = (some 3, 0) := by
  rw [minimaxL_succ 5 [none, none, none, none, some X, some X, none, none, some O] O X [0, 1, 2, 3, 6, 7] rfl rfl (List.cons_ne_nil _ _)]
  show pickBest [(0, (minimaxL 5 [some O, none, none, none, some X, some X, none, none, some O] X O).2), (1, (minimaxL 5 [none, some O, none, none, some X, some X, none, none, some O] X O).2), (2, (minimaxL 5 [none, none, some O, none, some X, some X, none, none, some O] X O).2), (3, (minimaxL 5 [none, none, none, some O, some X, some X, none, none, some O] X O).2), (6, (minimaxL 5 [none, none, none, none, some X, some X, some O, none, some O] X O).2), (7, (minimaxL 5 [none, none, none, none, some X, some X, none, some O, some O] X O).2)] O = (some 3, 0)
  rw [mmv_3626, mmv_3723, mmv_3806, mmv_3864, mmv_3894, mmv_3901]
  rfl

theorem mmv_3907 : minimaxL 6 [none, none, none, none, some X, none, some X, none, some O] O X = (some 2, 0) := by
  rw [minimaxL_succ 5 [none, none, none, none, some X, none, some X, none, some O] O X [0, 1, 2, 3, 5, 7] rfl rfl (List.cons_ne_nil _ _)]
  show pickBest [(0, (minimaxL 5 [some O, none, none, none, some X, none, some X, none, some O] X O).2), (1, (minimaxL 5 [none, some O, none, none, some X, none, some X, none, some O] X O).2), (2, (minimaxL 5 [none, none, some O, none, some X, none, some X, none, some O] X O).2), (3, (minimaxL 5 [none, none, none, some O, some X, none, some X, none, some O] X O).2), (5, (minimaxL 5 [none, none, none, none, some X, some O, some X, none, some O] X O).2), (7, (minimaxL 5 [none, none, none, none, some X, none, some X, some O, some O] X O).2)] O = (some 2, 0)
  rw [mmv_3636, mmv_3736, mmv_3835, mmv_3872, mmv_3884, mmv_3903]
  rfl

theorem mmv_3908 : minimaxL 6 [none, none, none, none, some X, none, none, some X, some O] O X = (some 1, 0) := by
  rw [minimaxL_succ 5 [none, none, none, none, some X, none, none, some X, some O] O X [0, 1, 2, 3, 5, 6] rfl rfl (List.cons_ne_nil _ _)]
  show pickBest [(0, (minimaxL 5 [some O, none, none, none, some X, none, none, some X, some O] X O).2), (1, (minimaxL 5 [none, some O, none, none, some X, none, none, some X, some O] X O).2), (2, (minimaxL 5 [none, none, some O, none, some X, none, none, some X, some O] X O).2), (3, (minimaxL 5 [none, none, none, some O, some X, none, none, some X, some O] X O).2), (5, (minimaxL 5 [none, none, none, none, some X, some O, none, some X, some O] X O).2), (6, (minimaxL 5 [none, none, none, none, some X, none, some O, some X, some O] X O).2)] O = (some 1, 0)
  rw [mmv_3646, mmv_3769, mmv_3845, mmv_3876, mmv_3887, mmv_3896]
  rfl

theorem mmv_3905 : minimaxL 7 [none, none, none, none, some X, none, none, none, some O] X O = (some 7, 0) := by
  rw [minimaxL_succ 6 [none, none, none, none, some X, none, none, none, some O] X O [0, 1, 2, 3, 5, 6, 7] rfl rfl (List.cons_ne_nil _ _)]
  show pickBest [(0, (minimaxL 6 [some X, none, none, none, some X, none, none, none, some O] O X).2), (1, (minimaxL 6 [none, some X, none, none, some X, none, none, none, some O] O X).2), (2, (minimaxL 6 [none, none, some X, none, some X, none, none, none, some O] O X).2), (3, (minimaxL 6 [none, none, none, some X, some X, none, none, none, some O] O X).2), (5, (minimaxL 6 [none, none, none, none, some X, some X, none, none, some O] O X).2), (6, (minimaxL 6 [none, none, none, none, some X, none, some X, none, some O] O X).2), (7, (minimaxL 6 [none, none, none, none, some X, none, none, some X, some O] O X).2)] X = (some 7, 0)
  rw [mmv_1228, mmv_2392, mmv_3124, mmv_3604, mmv_3906, mmv_3907, mmv_3908]
  rfl

theorem mmv_3608 : minimaxL 8 [none, none, none, none, some X, none, none, none, none] O X = (some 0, 0) := by
  rw [minimaxL_succ 7 [none, none, none, none, some X, none, none, none, none] O X [0, 1, 2, 3, 5, 6, 7, 8] rfl rfl (List.cons_ne_nil _ _)]
  show pickBest [(0, (minimaxL 7 [some O, none, none, none, some X, none, none, none, none] X O).2), (1, (minimaxL 7 [none, some O, none, none, some X, none, none, none, none] X O).2), (2, (minimaxL 7 [none, none, some O, none, some X, none, none, none, none] X O).2), (3, (minimaxL 7 [none, none, none, some O, some X, none, none, none, none] X O).2), (5, (minimaxL 7 [none, none, none, none, some X, some O, none, none, none] X O).2), (6, (minimaxL 7 [none, none, none, none, some X, none, some O, none, none] X O).2), (7, (minimaxL 7 [none, none, none, none, some X, none, none, some O, none] X O).2), (8, (minimaxL 7 [none, none, none, none, some X, none, none, none, some O] X O).2)] O = (some 0, 0)
  rw [mmv_3609, mmv_3690, mmv_3784, mmv_3851, mmv_3881, mmv_3891, mmv_3899, mmv_3905]
  rfl

theorem mmv_3914 : minimaxL 3 [some O, some O, some X, some O, none, some X, some X, none, none] X O = (some 8, 1) := rfl

theorem mmv_3915 : minimaxL 3 [some O, some O, some X, none, some O, some X, some X, none, none] X O = (some 8, 1) := rfl

theorem mmv_3916 : minimaxL 3 [some O, some O, some X, none, none, some X, some X, some O, none] X O = (some 8, 1) := rfl

theorem mmv_3913 : minimaxL 4 [some O, some O, some X, none, none, some X, some X, none, none] O X = (some 3, 1) := by
  rw [minimaxL_succ 3 [some O, some O, some X, none, none, some X, some X, none, none] O X [3, 4, 7, 8] rfl rfl (List.cons_ne_nil _ _)]
  show pickBest [(3, (minimaxL 3 [some O, some O, some X, some O, none, some X, some X, none, none] X O).2), (4, (minimaxL 3 [some O, some O, some X, none, some O, some X, some X, none, none] X O).2), (7, (minimaxL 3 [some O, some O, some X, none, none, some X, some X, some O, none] X O).2), (8, (minimaxL 3 [some O, some O, some X, none, none, some X, some X, none, some O] X O).2)] O = (some 3, 1)
  rw [mmv_3914, mmv_3915, mmv_3916, mmv_2758]
  rfl

theorem mmv_3917 : minimaxL 4 [some O, some O, none, none, some X, some X, some X, none, none] O X = (some 2, -1) := rfl

theorem mmv_3918 : minimaxL 4 [some O, some O, none, none, none, some X, some X, some X, none] O X = (some 2, -1) := rfl

theorem mmv_3919 : minimaxL 4 [some O, some O, none, none, none, some X, some X, none, some X] O X = (some 2, -1) := rfl

theorem mmv_3912 : minimaxL 5 [some O, some O, none, none, none, some X, some X, none, none] X O = (some 2, 1) := by
  rw [minimaxL_succ 4 [some O, some O, none, none, none, some X, some X, none, none] X O [2, 3, 4, 7, 8] rfl rfl (List.cons_ne_nil _ _)]
  show pickBest [(2, (minimaxL 4 [some O, some O, some X, none, none, some X, some X, none, none] O X).2), (3, (minimaxL 4 [some O, some O, none, some X, none, some X, some X, none, none] O X).2), (4, (minimaxL 4 [some O, some O, none, none, some X, some X, some X, none, none] O X).2), (7, (minimaxL 4 [some O, some O, none, none, none, some X, some X, some X, none] O X).2), (8, (minimaxL 4 [some O, some O, none, none, none, some X, some X, none, some X] O X).2)] X = (some 2, 1)
  rw [mmv_3913, mmv_3183, mmv_3917, mmv_3918, mmv_3919]
  rfl

theorem mmv_3921 : minimaxL 4 [some O, none, some O, none, none, some X, some X, some X, none] O X = (some 1, -1) := rfl

theorem mmv_3922 : minimaxL 4 [some O, none, some O, none, none, some X, some X, none, some X] O X = (some 1, -1) := rfl

theorem mmv_3920 : minimaxL 5 [some O, none, some O, none, none, some X, some X, none, none] X O = (some 1, 0) := by
  rw [minimaxL_succ 4 [some O, none, some O, none, none, some X, some X, none, none] X O [1, 3, 4, 7, 8] rfl rfl (List.cons_ne_nil _ _)]
  show pickBest [(1, (minimaxL 4 [some O, some X, some O, none, none, some X, some X, none, none] O X).2), (3, (minimaxL 4 [some O, none, some O, some X, none, some X, some X, none, none] O X).2), (4, (minimaxL 4 [some O, none, some O, none, some X, some X, some X, none, none] O X).2), (7, (minimaxL 4 [some O, none, some O, none, none, some X, some X, some X, none] O X).2), (8, (minimaxL 4 [some O, none, some O, none, none, some X, some X, none, some X] O X).2)] X = (some 1, 0)
  rw [mmv_1569, mmv_3188, mmv_3630, mmv_3921, mmv_3922]
  rfl

theorem mmv_3925 : minimaxL 3 [some O, none, some X, some O, none, some X, some X, some O, none] X O = (some 8, 1) := rfl

theorem mmv_3924 : minimaxL 4 [some O, none, some X, some O, none, some X, some X, none, none] O X = (some 1, 1) := by
  rw [minimaxL_succ 3 [some O, none, some X, some O, none, some X, some X, none, none] O X [1, 4, 7, 8] rfl rfl (List.cons_ne_nil _ _)]
  show pickBest [(1, (minimaxL 3 [some O, some O, some X, some O, none, some X, some X, none, none] X O).2), (4, (minimaxL 3 [some O, none, some X, some O, some O, some X, some X, none, none] X O).2), (7, (minimaxL 3 [some O, none, some X, some O, none, some X, some X, some O, none] X O).2), (8, (minimaxL 3 [some O, none, some X, some O, none, some X, some X, none, some O] X O).2)] O = (some 1, 1)
  rw [mmv_3914, mmv_2868, mmv_3925, mmv_2854]
  rfl

theorem mmv_3927 : minimaxL 3 [some O, some O, none, some O, none, some X, some X, some X, none] X O = (some 8, 1) := rfl

theorem mmv_3928 : minimaxL 3 [some O, none, some O, some O, none, some X, some X, some X, none] X O = (some 8, 1) := rfl

theorem mmv_3929 : minimaxL 3 [some O, none, none, some O, some O, some X, some X, some X, none] X O = (some 8, 1) := rfl

theorem mmv_3931 : minimaxL 2 [some O, none, none, some O, some X, some X, some X, some X, some O] O X = (some 1, 1) := by
  rw [minimaxL_succ 1 [some O, none, none, some O, some X, some X, some X, some X, some O] O X [1, 2] rfl rfl (List.cons_ne_nil _ _)]
  show pickBest [(1, (minimaxL 1 [some O, some O, none, some O, some X, some X, some X, some X, some O] X O).2), (2, (minimaxL 1 [some O, none, some O, some O, some X, some X, some X, some X, some O] X O).2)] O = (some 1, 1)
  rw [mmv_3714, mmv_3794]
  rfl

theorem mmv_3930 : minimaxL 3 [some O, none, none, some O, none, some X, some X, some X, some O] X O = (some 4, 1) := by
  rw [minimaxL_succ 2 [some O, none, none, some O, none, some X, some X, some X, some O] X O [1, 2, 4] rfl rfl (List.cons_ne_nil _ _)]
  show pickBest [(1, (minimaxL 2 [some O, some X, none, some O, none, some X, some X, some X, some O] O X).2), (2, (minimaxL 2 [some O, none, some X, some O, none, some X, some X, some X, some O] O X).2), (4, (minimaxL 2 [some O, none, none, some O, some X, some X, some X, some X, some O] O X).2)] X = (some 4, 1)
  rw [mmv_1618, mmv_2861, mmv_3931]
  rfl

theorem mmv_3926 : minimaxL 4 [some O, none, none, some O, none, some X, some X, some X, none] O X = (some 1, 1) := by
  rw [minimaxL_succ 3 [some O, none, none, some O, none, some X, some X, some X, none] O X [1, 2, 4, 8] rfl rfl (List.cons_ne_nil _ _)]
  show pickBest [(1, (minimaxL 3 [some O, some O, none, some O, none, some X, some X, some X, none] X O).2), (2, (minimaxL 3 [some O, none, some O, some O, none, some X, some X, some X, none] X O).2), (4, (minimaxL 3 [some O, none, none, some O, some O, some X, some X, some X, none] X O).2), (8, (minimaxL 3 [some O, none, none, some O, none, some X, some X, some X, some O] X O).2)] O = (some 1, 1)
  rw [mmv_3927, mmv_3928, mmv_3929, mmv_3930]
  rfl

theorem mmv_3933 : minimaxL 3 [some O, some O, none, some O, none, some X, some X, none, some X] X O = (some 2, 1) := rfl

theorem mmv_3934 : minimaxL 3 [some O, none, some O, some O, none, some X, some X, none, some X] X O = (some 7, 1) := rfl

theorem mmv_3935 : minimaxL 3 [some O, none, none, some O, some O, some X, some X, none, some X] X O = (some 2, 1) := rfl

theorem mmv_3936 : minimaxL 3 [some O, none, none, some O, none, some X, some X, some O, some X] X O = (some 2, 1) := rfl

theorem mmv_3932 : minimaxL 4 [some O, none, none, some O, none, some X, some X, none, some X] O X = (some 1, 1) := by
  rw [minimaxL_succ 3 [some O, none, none, some O, none, some X, some X, none, some X] O X [1, 2, 4, 7] rfl rfl (List.cons_ne_nil _ _)]
  show pickBest [(1, (minimaxL 3 [some O, some O, none, some O, none, some X, some X, none, some X] X O).2), (2, (minimaxL 3 [some O, none, some O, some O, none, some X, some X, none, some X] X O).2), (4, (minimaxL 3 [some O, none, none, some O, some O, some X, some X, none, some X] X O).2), (7, (minimaxL 3 [some O, none, none, some O, none, some X, some X, some O, some X] X O).2)] O = (some 1, 1)
  rw [mmv_3933, mmv_3934, mmv_3935, mmv_3936]
  rfl

theorem mmv_3923 : minimaxL 5 [some O, none, none, some O, none, some X, some X, none, none] X O = (some 8, 1) := by
  rw [minimaxL_succ 4 [some O, none, none, some O, none, some X, some X, none, none] X O [1, 2, 4, 7, 8] rfl rfl (List.cons_ne_nil _ _)]
  show pickBest [(1, (minimaxL 4 [some O, some X, none, some O, none, some X, some X, none, none] O X).2), (2, (minimaxL 4 [some O, none, some X, some O, none, some X, some X, none, none] O X).2), (4, (minimaxL 4 [some O, none, none, some O, some X, some X, some X, none, none] O X).2), (7, (minimaxL 4 [some O, none, none, some O, none, some X, some X, some X, none] O X).2), (8, (minimaxL 4 [some O, none, none, some O, none, some X, some X, none, some X] O X).2)] X = (some 8, 1)
  rw [mmv_1605, mmv_3924, mmv_3615, mmv_3926, mmv_3932]
  rfl

theorem mmv_3938 : minimaxL 4 [some O, none, none, none, some O, some X, some X, some X, none] O X = (some 8, -1) := rfl

theorem mmv_3940 : minimaxL 3 [some O, some O, none, none, some O, some X, some X, none, some X] X O = (some 2, 1) := rfl

theorem mmv_3941 : minimaxL 3 [some O, none, some O, none, some O, some X, some X, none, some X] X O = (some 7, 1) := rfl

theorem mmv_3942 : minimaxL 3 [some O, none, none, none, some O, some X, some X, some O, some X] X O = (some 2, 1) := rfl

theorem mmv_3939 : minimaxL 4 [some O, none, none, none, some O, some X, some X, none, some X] O X = (some 1, 1) := by
  rw [minimaxL_succ 3 [some O, none, none, none, some O, some X, some X, none, some X] O X [1, 2, 3, 7] rfl rfl (List.cons_ne_nil _ _)]
  show pickBest [(1, (minimaxL 3 [some O, some O, none, none, some O, some X, some X, none, some X] X O).2), (2, (minimaxL 3 [some O, none, some O, none, some O, some X, some X, none, some X] X O).2), (3, (minimaxL 3 [some O, none, none, some O, some O, some X, some X, none, some X] X O).2), (7, (minimaxL 3 [some O, none, none, none, some O, some X, some X, some O, some X] X O).2)] O = (some 1, 1)
  rw [mmv_3940, mmv_3941, mmv_3935, mmv_3942]
  rfl

theorem mmv_3937 : minimaxL 5 [some O, none, none, none, some O, some X, some X, none, none] X O = (some 8, 1) := by
  rw [minimaxL_succ 4 [some O, none, none, none, some O, some X, some X, none, none] X O [1, 2, 3, 7, 8] rfl rfl (List.cons_ne_nil _ _)]
  show pickBest [(1, (minimaxL 4 [some O, some X, none, none, some O, some X, some X, none, none] O X).2), (2, (minimaxL 4 [some O, none, some X, none, some O, some X, some X, none, none] O X).2), (3, (minimaxL 4 [some O, none, none, some X, some O, some X, some X, none, none] O X).2), (7, (minimaxL 4 [some O, none, none, none, some O, some X, some X, some X, none] O X).2), (8, (minimaxL 4 [some O, none, none, none, some O, some X, some X, none, some X] O X).2)] X = (some 8, 1)
  rw [mmv_1622, mmv_2556, mmv_3168, mmv_3938, mmv_3939]
  rfl

theorem mmv_3945 : minimaxL 3 [some O, none, some X, none, some O, some X, some X, some O, none] X O = (some 8, 1) := rfl

theorem mmv_3944 : minimaxL 4 [some O, none, some X, none, none, some X, some X, some O, none] O X = (some 1, 1) := by
  rw [minimaxL_succ 3 [some O, none, some X, none, none, some X, some X, some O, none] O X [1, 3, 4, 8] rfl rfl (List.cons_ne_nil _ _)]
  show pickBest [(1, (minimaxL 3 [some O, some O, some X, none, none, some X, some X, some O, none] X O).2), (3, (minimaxL 3 [some O, none, some X, some O, none, some X, some X, some O, none] X O).2), (4, (minimaxL 3 [some O, none, some X, none, some O, some X, some X, some O, none] X O).2), (8, (minimaxL 3 [some O, none, some X, none, none, some X, some X, some O, some O] X O).2)] O = (some 1, 1)
  rw [mmv_3916, mmv_3925, mmv_3945, mmv_3115]
  rfl

theorem mmv_3947 : minimaxL 3 [some O, some O, none, none, some X, some X, some X, some O, none] X O = (some 3, 1) := rfl

theorem mmv_3948 : minimaxL 3 [some O, none, none, none, some X, some X, some X, some O, some O] X O = (some 3, 1) := rfl

theorem mmv_3946 : minimaxL 4 [some O, none, none, none, some X, some X, some X, some O, none] O X = (some 1, 1) := by
  rw [minimaxL_succ 3 [some O, none, none, none, some X, some X, some X, some O, none] O X [1, 2, 3, 8] rfl rfl (List.cons_ne_nil _ _)]
  show pickBest [(1, (minimaxL 3 [some O, some O, none, none, some X, some X, some X, some O, none] X O).2), (2, (minimaxL 3 [some O, none, some O, none, some X, some X, some X, some O, none] X O).2), (3, (minimaxL 3 [some O, none, none, some O, some X, some X, some X, some O, none] X O).2), (8, (minimaxL 3 [some O, none, none, none, some X, some X, some X, some O, some O] X O).2)] O = (some 1, 1)
  rw [mmv_3947, mmv_3830, mmv_3620, mmv_3948]
  rfl

theorem mmv_3950 : minimaxL 3 [some O, some O, none, none, none, some X, some X, some O, some X] X O = (some 2, 1) := rfl

theorem mmv_3951 : minimaxL 3 [some O, none, some O, none, none, some X, some X, some O, some X] X O = (some 1, 0) := by
  rw [minimaxL_succ 2 [some O, none, some O, none, none, some X, some X, some O, some X] X O [1, 3, 4] rfl rfl (List.cons_ne_nil _ _)]
  show pickBest [(1, (minimaxL 2 [some O, some X, some O, none, none, some X, some X, some O, some X] O X).2), (3, (minimaxL 2 [some O, none, some O, some X, none, some X, some X, some O, some X] O X).2), (4, (minimaxL 2 [some O, none, some O, none, some X, some X, some X, some O, some X] O X).2)] X = (some 1, 0)
  rw [mmv_1584, mmv_3227, mmv_3689]
  rfl

theorem mmv_3949 : minimaxL 4 [some O, none, none, none, none, some X, some X, some O, some X] O X = (some 2, 0) := by
  rw [minimaxL_succ 3 [some O, none, none, none, none, some X, some X, some O, some X] O X [1, 2, 3, 4] rfl rfl (List.cons_ne_nil _ _)]
  show pickBest [(1, (minimaxL 3 [some O, some O, none, none, none, some X, some X, some O, some X] X O).2), (2, (minimaxL 3 [some O, none, some O, none, none, some X, some X, some O, some X] X O).2), (3, (minimaxL 3 [some O, none, none, some O, none, some X, some X, some O, some X] X O).2), (4, (minimaxL 3 [some O, none, none, none, some O, some X, some X, some O, some X] X O).2)] O = (some 2, 0)
  rw [mmv_3950, mmv_3951, mmv_3936, mmv_3942]
  rfl

theorem mmv_3943 : minimaxL 5 [some O, none, none, none, none, some X, some X, some O, none] X O = (some 4, 1) := by
  rw [minimaxL_succ 4 [some O, none, none, none, none, some X, some X, some O, none] X O [1, 2, 3, 4, 8] rfl rfl (List.cons_ne_nil _ _)]
  show pickBest [(1, (minimaxL 4 [some O, some X, none, none, none, some X, some X, some O, none] O X).2), (2, (minimaxL 4 [some O, none, some X, none, none, some X, some X, some O, none] O X).2), (3, (minimaxL 4 [some O, none, none, some X, none, some X, some X, some O, none] O X).2), (4, (minimaxL 4 [some O, none, none, none, some X, some X, some X, some O, none] O X).2), (8, (minimaxL 4 [some O, none, none, none, none, some X, some X, some O, some X] O X).2)] X = (some 4, 1)
  rw [mmv_1633, mmv_3944, mmv_3215, mmv_3946, mmv_3949]
  rfl

theorem mmv_3954 : minimaxL 3 [some O, some O, none, none, some X, some X, some X, none, some O] X O = (some 3, 1) := rfl

theorem mmv_3953 : minimaxL 4 [some O, none, none, none, some X, some X, some X, none, some O] O X = (some 1, 1) := by
  rw [minimaxL_succ 3 [some O, none, none, none, some X, some X, some X, none, some O] O X [1, 2, 3, 7] rfl rfl (List.cons_ne_nil _ _)]
  show pickBest [(1, (minimaxL 3 [some O, some O, none, none, some X, some X, some X, none, some O] X O).2), (2, (minimaxL 3 [some O, none, some O, none, some X, some X, some X, none, some O] X O).2), (3, (minimaxL 3 [some O, none, none, some O, some X, some X, some X, none, some O] X O).2), (7, (minimaxL 3 [some O, none, none, none, some X, some X, some X, some O, some O] X O).2)] O = (some 1, 1)
  rw [mmv_3954, mmv_3838, mmv_3621, mmv_3948]
  rfl

theorem mmv_3955 : minimaxL 4 [some O, none, none, none, none, some X, some X, some X, some O] O X = (some 4, -1) := rfl

theorem mmv_3952 : minimaxL 5 [some O, none, none, none, none, some X, some X, none, some O] X O = (some 4, 1) := by
  rw [minimaxL_succ 4 [some O, none, none, none, none, some X, some X, none, some O] X O [1, 2, 3, 4, 7] rfl rfl (List.cons_ne_nil _ _)]
  show pickBest [(1, (minimaxL 4 [some O, some X, none, none, none, some X, some X, none, some O] O X).2), (2, (minimaxL 4 [some O, none, some X, none, none, some X, some X, none, some O] O X).2), (3, (minimaxL 4 [some O, none, none, some X, none, some X, some X, none, some O] O X).2), (4, (minimaxL 4 [some O, none, none, none, some X, some X, some X, none, some O] O X).2), (7, (minimaxL 4 [some O, none, none, none, none, some X, some X, some X, some O] O X).2)] X = (some 4, 1)
  rw [mmv_1645, mmv_2550, mmv_3232, mmv_3953, mmv_3955]
  rfl

theorem mmv_3911 : minimaxL 6 [some O, none, none, none, none, some X, some X, none, none] O X = (some 2, 0) := by
  rw [minimaxL_succ 5 [some O, none, none, none, none, some X, some X, none, none] O X [1, 2, 3, 4, 7, 8] rfl rfl (List.cons_ne_nil _ _)]
  show pickBest [(1, (minimaxL 5 [some O, some O, none, none, none, some X, some X, none, none] X O).2), (2, (minimaxL 5 [some O, none, some O, none, none, some X, some X, none, none] X O).2), (3, (minimaxL 5 [some O, none, none, some O, none, some X, some X, none, none] X O).2), (4, (minimaxL 5 [some O, none, none, none, some O, some X, some X, none, none] X O).2), (7, (minimaxL 5 [some O, none, none, none, none, some X, some X, some O, none] X O).2), (8, (minimaxL 5 [some O, none, none, none, none, some X, some X, none, some O] X O).2)] O = (some 2, 0)
  rw [mmv_3912, mmv_3920, mmv_3923, mmv_3937, mmv_3943, mmv_3952]
  rfl

theorem mmv_3958 : minimaxL 4 [some O, some O, none, none, none, some X, none, some X, some X] O X = (some 2, -1) := rfl

theorem mmv_3957 : minimaxL 5 [some O, some O, none, none, none, some X, none, some X, none] X O = (some 2, 1) := by
  rw [minimaxL_succ 4 [some O, some O, none, none, none, some X, none, some X, none] X O [2, 3, 4, 6, 8] rfl rfl (List.cons_ne_nil _ _)]
  show pickBest [(2, (minimaxL 4 [some O, some O, some X, none, none, some X, none, some X, none] O X).2), (3, (minimaxL 4 [some O, some O, none, some X, none, some X, none, some X, none] O X).2), (4, (minimaxL 4 [some O, some O, none, none, some X, some X, none, some X, none] O X).2), (6, (minimaxL 4 [some O, some O, none, none, none, some X, some X, some X, none] O X).2), (8, (minimaxL 4 [some O, some O, none, none, none, some X, none, some X, some X] O X).2)] X = (some 2, 1)
  rw [mmv_2575, mmv_3237, mmv_3639, mmv_3918, mmv_3958]
  rfl

theorem mmv_3960 : minimaxL 4 [some O, none, some O, none, some X, some X, none, some X, none] O X = (some 1, -1) := rfl

theorem mmv_3961 : minimaxL 4 [some O, none, some O, none, none, some X, none, some X, some X] O X = (some 1, -1) := rfl

theorem mmv_3959 : minimaxL 5 [some O, none, some O, none, none, some X, none, some X, none] X O = (some 8, -1) := by
  rw [minimaxL_succ 4 [some O, none, some O, none, none, some X, none, some X, none] X O [1, 3, 4, 6, 8] rfl rfl (List.cons_ne_nil _ _)]
  show pickBest [(1, (minimaxL 4 [some O, some X, some O, none, none, some X, none, some X, none] O X).2), (3, (minimaxL 4 [some O, none, some O, some X, none, some X, none, some X, none] O X).2), (4, (minimaxL 4 [some O, none, some O, none, some X, some X, none, some X, none] O X).2), (6, (minimaxL 4 [some O, none, some O, none, none, some X, some X, some X, none] O X).2), (8, (minimaxL 4 [some O, none, some O, none, none, some X, none, some X, some X] O X).2)] X = (some 8, -1)
  rw [mmv_1588, mmv_3241, mmv_3960, mmv_3921, mmv_3961]
  rfl

theorem mmv_3963 : minimaxL 4 [some O, none, none, some O, none, some X, none, some X, some X] O X = (some 6, -1) := rfl

theorem mmv_3962 : minimaxL 5 [some O, none, none, some O, none, some X, none, some X, none] X O = (some 6, 1) := by
  rw [minimaxL_succ 4 [some O, none, none, some O, none, some X, none, some X, none] X O [1, 2, 4, 6, 8] rfl rfl (List.cons_ne_nil _ _)]
  show pickBest [(1, (minimaxL 4 [some O, some X, none, some O, none, some X, none, some X, none] O X).2), (2, (minimaxL 4 [some O, none, some X, some O, none, some X, none, some X, none] O X).2), (4, (minimaxL 4 [some O, none, none, some O, some X, some X, none, some X, none] O X).2), (6, (minimaxL 4 [some O, none, none, some O, none, some X, some X, some X, none] O X).2), (8, (minimaxL 4 [some O, none, none, some O, none, some X, none, some X, some X] O X).2)] X = (some 6, 1)
  rw [mmv_1619, mmv_2596, mmv_3622, mmv_3926, mmv_3963]
  rfl

theorem mmv_3966 : minimaxL 3 [some O, some O, none, none, some O, some X, none, some X, some X] X O = (some 2, 1) := rfl

theorem mmv_3967 : minimaxL 3 [some O, none, some O, none, some O, some X, none, some X, some X] X O = (some 6, 1) := rfl

theorem mmv_3968 : minimaxL 3 [some O, none, none, some O, some O, some X, none, some X, some X] X O = (some 2, 1) := rfl

theorem mmv_3969 : minimaxL 3 [some O, none, none, none, some O, some X, some O, some X, some X] X O = (some 2, 1) := rfl

theorem mmv_3965 : minimaxL 4 [some O, none, none, none, some O, some X, none, some X, some X] O X = (some 1, 1) := by
  rw [minimaxL_succ 3 [some O, none, none, none, some O, some X, none, some X, some X] O X [1, 2, 3, 6] rfl rfl (List.cons_ne_nil _ _)]
  show pickBest [(1, (minimaxL 3 [some O, some O, none, none, some O, some X, none, some X, some X] X O).2), (2, (minimaxL 3 [some O, none, some O, none, some O, some X, none, some X, some X] X O).2), (3, (minimaxL 3 [some O, none, none, some O, some O, some X, none, some X, some X] X O).2), (6, (minimaxL 3 [some O, none, none, none, some O, some X, some O, some X, some X] X O).2)] O = (some 1, 1)
  rw [mmv_3966, mmv_3967, mmv_3968, mmv_3969]
  rfl

theorem mmv_3964 : minimaxL 5 [some O, none, none, none, some O, some X, none, some X, none] X O = (some 8, 1) := by
  rw [minimaxL_succ 4 [some O, none, none, none, some O, some X, none, some X, none] X O [1, 2, 3, 6, 8] rfl rfl (List.cons_ne_nil _ _)]
  show pickBest [(1, (minimaxL 4 [some O, some X, none, none, some O, some X, none, some X, none] O X).2), (2, (minimaxL 4 [some O, none, some X, none, some O, some X, none, some X, none] O X).2), (3, (minimaxL 4 [some O, none, none, some X, some O, some X, none, some X, none] O X).2), (6, (minimaxL 4 [some O, none, none, none, some O, some X, some X, some X, none] O X).2), (8, (minimaxL 4 [some O, none, none, none, some O, some X, none, some X, some X] O X).2)] X = (some 8, 1)
  rw [mmv_1623, mmv_2603, mmv_3169, mmv_3938, mmv_3965]
  rfl

theorem mmv_3971 : minimaxL 4 [some O, none, none, none, some X, some X, some O, some X, none] O X = (some 3, -1) := rfl

theorem mmv_3972 : minimaxL 4 [some O, none, none, none, none, some X, some O, some X, some X] O X = (some 3, -1) := rfl

theorem mmv_3970 : minimaxL 5 [some O, none, none, none, none, some X, some O, some X, none] X O = (some 8, -1) := by
  rw [minimaxL_succ 4 [some O, none, none, none, none, some X, some O, some X, none] X O [1, 2, 3, 4, 8] rfl rfl (List.cons_ne_nil _ _)]
  show pickBest [(1, (minimaxL 4 [some O, some X, none, none, none, some X, some O, some X, none] O X).2), (2, (minimaxL 4 [some O, none, some X, none, none, some X, some O, some X, none] O X).2), (3, (minimaxL 4 [some O, none, none, some X, none, some X, some O, some X, none] O X).2), (4, (minimaxL 4 [some O, none, none, none, some X, some X, some O, some X, none] O X).2), (8, (minimaxL 4 [some O, none, none, none, none, some X, some O, some X, some X] O X).2)] X = (some 8, -1)
  rw [mmv_1630, mmv_2621, mmv_3260, mmv_3971, mmv_3972]
  rfl

theorem mmv_3975 : minimaxL 3 [some O, none, some O, none, some X, some X, none, some X, some O] X O = (some 3, 1) := rfl

theorem mmv_3976 : minimaxL 3 [some O, none, none, none, some X, some X, some O, some X, some O] X O = (some 3, 1) := rfl

theorem mmv_3974 : minimaxL 4 [some O, none, none, none, some X, some X, none, some X, some O] O X = (some 1, 1) := by
  rw [minimaxL_succ 3 [some O, none, none, none, some X, some X, none, some X, some O] O X [1, 2, 3, 6] rfl rfl (List.cons_ne_nil _ _)]
  show pickBest [(1, (minimaxL 3 [some O, some O, none, none, some X, some X, none, some X, some O] X O).2), (2, (minimaxL 3 [some O, none, some O, none, some X, some X, none, some X, some O] X O).2), (3, (minimaxL 3 [some O, none, none, some O, some X, some X, none, some X, some O] X O).2), (6, (minimaxL 3 [some O, none, none, none, some X, some X, some O, some X, some O] X O).2)] O = (some 1, 1)
  rw [mmv_3771, mmv_3975, mmv_3867, mmv_3976]
  rfl

theorem mmv_3973 : minimaxL 5 [some O, none, none, none, none, some X, none, some X, some O] X O = (some 4, 1) := by
  rw [minimaxL_succ 4 [some O, none, none, none, none, some X, none, some X, some O] X O [1, 2, 3, 4, 6] rfl rfl (List.cons_ne_nil _ _)]
  show pickBest [(1, (minimaxL 4 [some O, some X, none, none, none, some X, none, some X, some O] O X).2), (2, (minimaxL 4 [some O, none, some X, none, none, some X, none, some X, some O] O X).2), (3, (minimaxL 4 [some O, none, none, some X, none, some X, none, some X, some O] O X).2), (4, (minimaxL 4 [some O, none, none, none, some X, some X, none, some X, some O] O X).2), (6, (minimaxL 4 [some O, none, none, none, none, some X, some X, some X, some O] O X).2)] X = (some 4, 1)
  rw [mmv_1646, mmv_2551, mmv_3276, mmv_3974, mmv_3955]
  rfl

theorem mmv_3956 : minimaxL 6 [some O, none, none, none, none, some X, none, some X, none] O X = (some 2, -1) := by
  rw [minimaxL_succ 5 [some O, none, none, none, none, some X, none, some X, none] O X [1, 2, 3, 4, 6, 8] rfl rfl (List.cons_ne_nil _ _)]
  show pickBest [(1, (minimaxL 5 [some O, some O, none, none, none, some X, none, some X, none] X O).2), (2, (minimaxL 5 [some O, none, some O, none, none, some X, none, some X, none] X O).2), (3, (minimaxL 5 [some O, none, none, some O, none, some X, none, some X, none] X O).2), (4, (minimaxL 5 [some O, none, none, none, some O, some X, none, some X, none] X O).2), (6, (minimaxL 5 [some O, none, none, none, none, some X, some O, some X, none] X O).2), (8, (minimaxL 5 [some O, none, none, none, none, some X, none, some X, some O] X O).2)] O = (some 2, -1)
  rw [mmv_3957, mmv_3959, mmv_3962, mmv_3964, mmv_3970, mmv_3973]
  rfl

theorem mmv_3978 : minimaxL 5 [some O, some O, none, none, none, some X, none, none, some X] X O = (some 2, 1) := rfl

theorem mmv_3979 : minimaxL 5 [some O, none, some O, none, none, some X, none, none, some X] X O = (some 7, -1) := by
  rw [minimaxL_succ 4 [some O, none, some O, none, none, some X, none, none, some X] X O [1, 3, 4, 6, 7] rfl rfl (List.cons_ne_nil _ _)]
  show pickBest [(1, (minimaxL 4 [some O, some X, some O, none, none, some X, none, none, some X] O X).2), (3, (minimaxL 4 [some O, none, some O, some X, none, some X, none, none, some X] O X).2), (4, (minimaxL 4 [some O, none, some O, none, some X, some X, none, none, some X] O X).2), (6, (minimaxL 4 [some O, none, some O, none, none, some X, some X, none, some X] O X).2), (7, (minimaxL 4 [some O, none, some O, none, none, some X, none, some X, some X] O X).2)] X = (some 7, -1)
  rw [mmv_1594, mmv_3283, mmv_3655, mmv_3922, mmv_3961]
  rfl

theorem mmv_3980 : minimaxL 5 [some O, none, none, some O, none, some X, none, none, some X] X O = (some 2, 1) := rfl

theorem mmv_3981 : minimaxL 5 [some O, none, none, none, some O, some X, none, none, some X] X O = (some 2, 1) := rfl

theorem mmv_3982 : minimaxL 5 [some O, none, none, none, none, some X, some O, none, some X] X O = (some 2, 1) := rfl

theorem mmv_3983 : minimaxL 5 [some O, none, none, none, none, some X, none, some O, some X] X O = (some 2, 1) := rfl

theorem mmv_3977 : minimaxL 6 [some O, none, none, none, none, some X, none, none, some X] O X = (some 2, -1) := by
  rw [minimaxL_succ 5 [some O, none, none, none, none, some X, none, none, some X] O X [1, 2, 3, 4, 6, 7] rfl rfl (List.cons_ne_nil _ _)]
  show pickBest [(1, (minimaxL 5 [some O, some O, none, none, none, some X, none, none, some X] X O).2), (2, (minimaxL 5 [some O, none, some O, none, none, some X, none, none, some X] X O).2), (3, (minimaxL 5 [some O, none, none, some O, none, some X, none, none, some X] X O).2), (4, (minimaxL 5 [some O, none, none, none, some O, some X, none, none, some X] X O).2), (6, (minimaxL 5 [some O, none, none, none, none, some X, some O, none, some X] X O).2), (7, (minimaxL 5 [some O, none, none, none, none, some X, none, some O, some X] X O).2)] O = (some 2, -1)
  rw [mmv_3978, mmv_3979, mmv_3980, mmv_3981, mmv_3982, mmv_3983]
  rfl

theorem mmv_3910 : minimaxL 7 [some O, none, none, none, none, some X, none, none, none] X O = (some 2, 1) := by
  rw [minimaxL_succ 6 [some O, none, none, none, none, some X, none, none, none] X O [1, 2, 3, 4, 6, 7, 8] rfl rfl (List.cons_ne_nil _ _)]
  show pickBest [(1, (minimaxL 6 [some O, some X, none, none, none, some X, none, none, none] O X).2), (2, (minimaxL 6 [some O, none, some X, none, none, some X, none, none, none] O X).2), (3, (minimaxL 6 [some O, none, none, some X, none, some X, none, none, none] O X).2), (4, (minimaxL 6 [some O, none, none, none, some X, some X, none, none, none] O X).2), (6, (minimaxL 6 [some O, none, none, none, none, some X, some X, none, none] O X).2), (7, (minimaxL 6 [some O, none, none, none, none, some X, none, some X, none] O X).2), (8, (minimaxL 6 [some O, none, none, none, none, some X, none, none, some X] O X).2)] X = (some 2, 1)
  rw [mmv_1563, mmv_2538, mmv_3164, mmv_3610, mmv_3911, mmv_3956, mmv_3977]
  rfl

theorem mmv_3987 : minimaxL 4 [none, some O, some O, some X, none, some X, some X, none, none] O X = (some 0, -1) := rfl

theorem mmv_3988 : minimaxL 4 [none, some O, some O, none, none, some X, some X, some X, none] O X = (some 0, -1) := rfl

theorem mmv_3989 : minimaxL 4 [none, some O, some O, none, none, some X, some X, none, some X] O X = (some 0, -1) := rfl

theorem mmv_3986 : minimaxL 5 [none, some O, some O, none, none, some X, some X, none, none] X O = (some 0, 1) := by
  rw [minimaxL_succ 4 [none, some O, some O, none, none, some X, some X, none, none] X O [0, 3, 4, 7, 8] rfl rfl (List.cons_ne_nil _ _)]
  show pickBest [(0, (minimaxL 4 [some X, some O, some O, none, none, some X, some X, none, none] O X).2), (3, (minimaxL 4 [none, some O, some O, some X, none, some X, some X, none, none] O X).2), (4, (minimaxL 4 [none, some O, some O, none, some X, some X, some X, none, none] O X).2), (7, (minimaxL 4 [none, some O, some O, none, none, some X, some X, some X, none] O X).2), (8, (minimaxL 4 [none, some O, some O, none, none, some X, some X, none, some X] O X).2)] X = (some 0, 1)
  rw [mmv_0276, mmv_3987, mmv_3730, mmv_3988, mmv_3989]
  rfl

theorem mmv_3992 : minimaxL 3 [none, some O, some X, some O, none, some X, some X, some O, none] X O = (some 8, 1) := rfl

theorem mmv_3991 : minimaxL 4 [none, some O, some X, some O, none, some X, some X, none, none] O X = (some 0, 1) := by
  rw [minimaxL_succ 3 [none, some O, some X, some O, none, some X, some X, none, none] O X [0, 4, 7, 8] rfl rfl (List.cons_ne_nil _ _)]
  show pickBest [(0, (minimaxL 3 [some O, some O, some X, some O, none, some X, some X, none, none] X O).2), (4, (minimaxL 3 [none, some O, some X, some O, some O, some X, some X, none, none] X O).2), (7, (minimaxL 3 [none, some O, some X, some O, none, some X, some X, some O, none] X O).2), (8, (minimaxL 3 [none, some O, some X, some O, none, some X, some X, none, some O] X O).2)] O = (some 0, 1)
  rw [mmv_3914, mmv_2869, mmv_3992, mmv_2759]
  rfl

theorem mmv_3994 : minimaxL 3 [none, some O, some O, some O, none, some X, some X, some X, none] X O = (some 8, 1) := rfl

theorem mmv_3995 : minimaxL 3 [none, some O, none, some O, some O, some X, some X, some X, none] X O = (some 8, 1) := rfl

theorem mmv_3996 : minimaxL 3 [none, some O, none, some O, none, some X, some X, some X, some O] X O = (some 4, 0) := by
  rw [minimaxL_succ 2 [none, some O, none, some O, none, some X, some X, some X, some O] X O [0, 2, 4] rfl rfl (List.cons_ne_nil _ _)]
  show pickBest [(0, (minimaxL 2 [some X, some O, none, some O, none, some X, some X, some X, some O] O X).2), (2, (minimaxL 2 [none, some O, some X, some O, none, some X, some X, some X, some O] O X).2), (4, (minimaxL 2 [none, some O, none, some O, some X, some X, some X, some X, some O] O X).2)] X = (some 4, 0)
  rw [mmv_0329, mmv_2766, mmv_3713]
  rfl

theorem mmv_3993 : minimaxL 4 [none, some O, none, some O, none, some X, some X, some X, none] O X = (some 8, 0) := by
  rw [minimaxL_succ 3 [none, some O, none, some O, none, some X, some X, some X, none] O X [0, 2, 4, 8] rfl rfl (List.cons_ne_nil _ _)]
  show pickBest [(0, (minimaxL 3 [some O, some O, none, some O, none, some X, some X, some X, none] X O).2), (2, (minimaxL 3 [none, some O, some O, some O, none, some X, some X, some X, none] X O).2), (4, (minimaxL 3 [none, some O, none, some O, some O, some X, some X, some X, none] X O).2), (8, (minimaxL 3 [none, some O, none, some O, none, some X, some X, some X, some O] X O).2)] O = (some 8, 0)
  rw [mmv_3927, mmv_3994, mmv_3995, mmv_3996]
  rfl

theorem mmv_3998 : minimaxL 3 [none, some O, some O, some O, none, some X, some X, none, some X] X O = (some 7, 1) := rfl

theorem mmv_3999 : minimaxL 3 [none, some O, none, some O, some O, some X, some X, none, some X] X O = (some 2, 1) := rfl

theorem mmv_4000 : minimaxL 3 [none, some O, none, some O, none, some X, some X, some O, some X] X O = (some 2, 1) := rfl

theorem mmv_3997 : minimaxL 4 [none, some O, none, some O, none, some X, some X, none, some X] O X = (some 0, 1) := by
  rw [minimaxL_succ 3 [none, some O, none, some O, none, some X, some X, none, some X] O X [0, 2, 4, 7] rfl rfl (List.cons_ne_nil _ _)]
  show pickBest [(0, (minimaxL 3 [some O, some O, none, some O, none, some X, some X, none, some X] X O).2), (2, (minimaxL 3 [none, some O, some O, some O, none, some X, some X, none, some X] X O).2), (4, (minimaxL 3 [none, some O, none, some O, some O, some X, some X, none, some X] X O).2), (7, (minimaxL 3 [none, some O, none, some O, none, some X, some X, some O, some X] X O).2)] O = (some 0, 1)
  rw [mmv_3933, mmv_3998, mmv_3999, mmv_4000]
  rfl

theorem mmv_3990 : minimaxL 5 [none, some O, none, some O, none, some X, some X, none, none] X O = (some 8, 1) := by
  rw [minimaxL_succ 4 [none, some O, none, some O, none, some X, some X, none, none] X O [0, 2, 4, 7, 8] rfl rfl (List.cons_ne_nil _ _)]
  show pickBest [(0, (minimaxL 4 [some X, some O, none, some O, none, some X, some X, none, none] O X).2), (2, (minimaxL 4 [none, some O, some X, some O, none, some X, some X, none, none] O X).2), (4, (minimaxL 4 [none, some O, none, some O, some X, some X, some X, none, none] O X).2), (7, (minimaxL 4 [none, some O, none, some O, none, some X, some X, some X, none] O X).2), (8, (minimaxL 4 [none, some O, none, some O, none, some X, some X, none, some X] O X).2)] X = (some 8, 1)
  rw [mmv_0319, mmv_3991, mmv_3697, mmv_3993, mmv_3997]
  rfl

theorem mmv_4003 : minimaxL 3 [some O, some O, none, none, some O, some X, some X, some X, none] X O = (some 8, 1) := rfl

theorem mmv_4004 : minimaxL 3 [none, some O, some O, none, some O, some X, some X, some X, none] X O = (some 8, 1) := rfl

theorem mmv_4005 : minimaxL 3 [none, some O, none, none, some O, some X, some X, some X, some O] X O = (some 0, 0) := by
  rw [minimaxL_succ 2 [none, some O, none, none, some O, some X, some X, some X, some O] X O [0, 2, 3] rfl rfl (List.cons_ne_nil _ _)]
  show pickBest [(0, (minimaxL 2 [some X, some O, none, none, some O, some X, some X, some X, some O] O X).2), (2, (minimaxL 2 [none, some O, some X, none, some O, some X, some X, some X, some O] O X).2), (3, (minimaxL 2 [none, some O, none, some X, some O, some X, some X, some X, some O] O X).2)] X = (some 0, 0)
  rw [mmv_0350, mmv_2761, mmv_3344]
  rfl

theorem mmv_4002 : minimaxL 4 [none, some O, none, none, some O, some X, some X, some X, none] O X = (some 8, 0) := by
  rw [minimaxL_succ 3 [none, some O, none, none, some O, some X, some X, some X, none] O X [0, 2, 3, 8] rfl rfl (List.cons_ne_nil _ _)]
  show pickBest [(0, (minimaxL 3 [some O, some O, none, none, some O, some X, some X, some X, none] X O).2), (2, (minimaxL 3 [none, some O, some O, none, some O, some X, some X, some X, none] X O).2), (3, (minimaxL 3 [none, some O, none, some O, some O, some X, some X, some X, none] X O).2), (8, (minimaxL 3 [none, some O, none, none, some O, some X, some X, some X, some O] X O).2)] O = (some 8, 0)
  rw [mmv_4003, mmv_4004, mmv_3995, mmv_4005]
  rfl

theorem mmv_4006 : minimaxL 4 [none, some O, none, none, some O, some X, some X, none, some X] O X = (some 7, -1) := rfl

theorem mmv_4001 : minimaxL 5 [none, some O, none, none, some O, some X, some X, none, none] X O = (some 7, 0) := by
  rw [minimaxL_succ 4 [none, some O, none, none, some O, some X, some X, none, none] X O [0, 2, 3, 7, 8] rfl rfl (List.cons_ne_nil _ _)]
  show pickBest [(0, (minimaxL 4 [some X, some O, none, none, some O, some X, some X, none, none] O X).2), (2, (minimaxL 4 [none, some O, some X, none, some O, some X, some X, none, none] O X).2), (3, (minimaxL 4 [none, some O, none, some X, some O, some X, some X, none, none] O X).2), (7, (minimaxL 4 [none, some O, none, none, some O, some X, some X, some X, none] O X).2), (8, (minimaxL 4 [none, some O, none, none, some O, some X, some X, none, some X] O X).2)] X = (some 7, 0)
  rw [mmv_0344, mmv_2774, mmv_3333, mmv_4002, mmv_4006]
  rfl

theorem mmv_4008 : minimaxL 4 [none, some O, some X, none, none, some X, some X, some O, none] O X = (some 4, -1) := rfl

theorem mmv_4009 : minimaxL 4 [none, some O, none, some X, none, some X, some X, some O, none] O X = (some 4, -1) := rfl

theorem mmv_4011 : minimaxL 3 [none, some O, none, none, some X, some X, some X, some O, some O] X O = (some 3, 1) := rfl

theorem mmv_4010 : minimaxL 4 [none, some O, none, none, some X, some X, some X, some O, none] O X = (some 0, 1) := by
  rw [minimaxL_succ 3 [none, some O, none, none, some X, some X, some X, some O, none] O X [0, 2, 3, 8] rfl rfl (List.cons_ne_nil _ _)]
  show pickBest [(0, (minimaxL 3 [some O, some O, none, none, some X, some X, some X, some O, none] X O).2), (2, (minimaxL 3 [none, some O, some O, none, some X, some X, some X, some O, none] X O).2), (3, (minimaxL 3 [none, some O, none, some O, some X, some X, some X, some O, none] X O).2), (8, (minimaxL 3 [none, some O, none, none, some X, some X, some X, some O, some O] X O).2)] O = (some 0, 1)
  rw [mmv_3947, mmv_3831, mmv_3701, mmv_4011]
  rfl

theorem mmv_4012 : minimaxL 4 [none, some O, none, none, none, some X, some X, some O, some X] O X = (some 4, -1) := rfl

theorem mmv_4007 : minimaxL 5 [none, some O, none, none, none, some X, some X, some O, none] X O = (some 4, 1) := by
  rw [minimaxL_succ 4 [none, some O, none, none, none, some X, some X, some O, none] X O [0, 2, 3, 4, 8] rfl rfl (List.cons_ne_nil _ _)]
  show pickBest [(0, (minimaxL 4 [some X, some O, none, none, none, some X, some X, some O, none] O X).2), (2, (minimaxL 4 [none, some O, some X, none, none, some X, some X, some O, none] O X).2), (3, (minimaxL 4 [none, some O, none, some X, none, some X, some X, some O, none] O X).2), (4, (minimaxL 4 [none, some O, none, none, some X, some X, some X, some O, none] O X).2), (8, (minimaxL 4 [none, some O, none, none, none, some X, some X, some O, some X] O X).2)] X = (some 4, 1)
  rw [mmv_0363, mmv_4008, mmv_4009, mmv_4010, mmv_4012]
  rfl

theorem mmv_4015 : minimaxL 3 [some O, some O, none, some X, none, some X, some X, none, some O] X O = (some 4, 1) := rfl

theorem mmv_4016 : minimaxL 3 [none, some O, some O, some X, none, some X, some X, none, some O] X O = (some 4, 1) := rfl

theorem mmv_4017 : minimaxL 3 [none, some O, none, some X, some O, some X, some X, none, some O] X O = (some 0, 1) := rfl

theorem mmv_4018 : minimaxL 3 [none, some O, none, some X, none, some X, some X, some O, some O] X O = (some 4, 1) := rfl

theorem mmv_4014 : minimaxL 4 [none, some O, none, some X, none, some X, some X, none, some O] O X = (some 0, 1) := by
  rw [minimaxL_succ 3 [none, some O, none, some X, none, some X, some X, none, some O] O X [0, 2, 4, 7] rfl rfl (List.cons_ne_nil _ _)]
  show pickBest [(0, (minimaxL 3 [some O, some O, none, some X, none, some X, some X, none, some O] X O).2), (2, (minimaxL 3 [none, some O, some O, some X, none, some X, some X, none, some O] X O).2), (4, (minimaxL 3 [none, some O, none, some X, some O, some X, some X, none, some O] X O).2), (7, (minimaxL 3 [none, some O, none, some X, none, some X, some X, some O, some O] X O).2)] O = (some 0, 1)
  rw [mmv_4015, mmv_4016, mmv_4017, mmv_4018]
  rfl

theorem mmv_4019 : minimaxL 4 [none, some O, none, none, some X, some X, some X, none, some O] O X = (some 0, 1) := by
  rw [minimaxL_succ 3 [none, some O, none, none, some X, some X, some X, none, some O] O X [0, 2, 3, 7] rfl rfl (List.cons_ne_nil _ _)]
  show pickBest [(0, (minimaxL 3 [some O, some O, none, none, some X, some X, some X, none, some O] X O).2), (2, (minimaxL 3 [none, some O, some O, none, some X, some X, some X, none, some O] X O).2), (3, (minimaxL 3 [none, some O, none, some O, some X, some X, some X, none, some O] X O).2), (7, (minimaxL 3 [none, some O, none, none, some X, some X, some X, some O, some O] X O).2)] O = (some 0, 1)
  rw [mmv_3954, mmv_3839, mmv_3702, mmv_4011]
  rfl

theorem mmv_4022 : minimaxL 2 [some O, some O, none, none, some X, some X, some X, some X, some O] O X = (some 2, -1) := rfl

theorem mmv_4021 : minimaxL 3 [some O, some O, none, none, none, some X, some X, some X, some O] X O = (some 4, -1) := by
  rw [minimaxL_succ 2 [some O, some O, none, none, none, some X, some X, some X, some O] X O [2, 3, 4] rfl rfl (List.cons_ne_nil _ _)]
  show pickBest [(2, (minimaxL 2 [some O, some O, some X, none, none, some X, some X, some X, some O] O X).2), (3, (minimaxL 2 [some O, some O, none, some X, none, some X, some X, some X, some O] O X).2), (4, (minimaxL 2 [some O, some O, none, none, some X, some X, some X, some X, some O] O X).2)] X = (some 4, -1)
  rw [mmv_2583, mmv_3398, mmv_4022]
  rfl

theorem mmv_4024 : minimaxL 2 [none, some O, some O, some X, none, some X, some X, some X, some O] O X = (some 0, -1) := rfl

theorem mmv_4023 : minimaxL 3 [none, some O, some O, none, none, some X, some X, some X, some O] X O = (some 0, 0) := by
  rw [minimaxL_succ 2 [none, some O, some O, none, none, some X, some X, some X, some O] X O [0, 3, 4] rfl rfl (List.cons_ne_nil _ _)]
  show pickBest [(0, (minimaxL 2 [some X, some O, some O, none, none, some X, some X, some X, some O] O X).2), (3, (minimaxL 2 [none, some O, some O, some X, none, some X, some X, some X, some O] O X).2), (4, (minimaxL 2 [none, some O, some O, none, some X, some X, some X, some X, some O] O X).2)] X = (some 0, 0)
  rw [mmv_0307, mmv_4024, mmv_3777]
  rfl

theorem mmv_4020 : minimaxL 4 [none, some O, none, none, none, some X, some X, some X, some O] O X = (some 0, -1) := by
  rw [minimaxL_succ 3 [none, some O, none, none, none, some X, some X, some X, some O] O X [0, 2, 3, 4] rfl rfl (List.cons_ne_nil _ _)]
  show pickBest [(0, (minimaxL 3 [some O, some O, none, none, none, some X, some X, some X, some O] X O).2), (2, (minimaxL 3 [none, some O, some O, none, none, some X, some X, some X, some O] X O).2), (3, (minimaxL 3 [none, some O, none, some O, none, some X, some X, some X, some O] X O).2), (4, (minimaxL 3 [none, some O, none, none, some O, some X, some X, some X, some O] X O).2)] O = (some 0, -1)
  rw [mmv_4021, mmv_4023, mmv_3996, mmv_4005]
  rfl

theorem mmv_4013 : minimaxL 5 [none, some O, none, none, none, some X, some X, none, some O] X O = (some 4, 1) := by
  rw [minimaxL_succ 4 [none, some O, none, none, none, some X, some X, none, some O] X O [0, 2, 3, 4, 7] rfl rfl (List.cons_ne_nil _ _)]
  show pickBest [(0, (minimaxL 4 [some X, some O, none, none, none, some X, some X, none, some O] O X).2), (2, (minimaxL 4 [none, some O, some X, none, none, some X, some X, none, some O] O X).2), (3, (minimaxL 4 [none, some O, none, some X, none, some X, some X, none, some O] O X).2), (4, (minimaxL 4 [none, some O, none, none, some X, some X, some X, none, some O] O X).2), (7, (minimaxL 4 [none, some O, none, none, none, some X, some X, some X, some O] O X).2)] X = (some 4, 1)
  rw [mmv_0369, mmv_2757, mmv_4014, mmv_4019, mmv_4020]
  rfl

theorem mmv_3985 : minimaxL 6 [none, some O, none, none, none, some X, some X, none, none] O X = (some 4, 0) := by
  rw [minimaxL_succ 5 [none, some O, none, none, none, some X, some X, none, none] O X [0, 2, 3, 4, 7, 8] rfl rfl (List.cons_ne_nil _ _)]
  show pickBest [(0, (minimaxL 5 [some O, some O, none, none, none, some X, some X, none, none] X O).2), (2, (minimaxL 5 [none, some O, some O, none, none, some X, some X, none, none] X O).2), (3, (minimaxL 5 [none, some O, none, some O, none, some X, some X, none, none] X O).2), (4, (minimaxL 5 [none, some O, none, none, some O, some X, some X, none, none] X O).2), (7, (minimaxL 5 [none, some O, none, none, none, some X, some X, some O, none] X O).2), (8, (minimaxL 5 [none, some O, none, none, none, some X, some X, none, some O] X O).2)] O = (some 4, 0)
  rw [mmv_3912, mmv_3986, mmv_3990, mmv_4001, mmv_4007, mmv_4013]
  rfl

theorem mmv_4027 : minimaxL 4 [none, some O, some O, none, none, some X, none, some X, some X] O X = (some 0, -1) := rfl

theorem mmv_4026 : minimaxL 5 [none, some O, some O, none, none, some X, none, some X, none] X O = (some 0, 1) := by
  rw [minimaxL_succ 4 [none, some O, some O, none, none, some X, none, some X, none] X O [0, 3, 4, 6, 8] rfl rfl (List.cons_ne_nil _ _)]
  show pickBest [(0, (minimaxL 4 [some X, some O, some O, none, none, some X, none, some X, none] O X).2), (3, (minimaxL 4 [none, some O, some O, some X, none, some X, none, some X, none] O X).2), (4, (minimaxL 4 [none, some O, some O, none, some X, some X, none, some X, none] O X).2), (6, (minimaxL 4 [none, some O, some O, none, none, some X, some X, some X, none] O X).2), (8, (minimaxL 4 [none, some O, some O, none, none, some X, none, some X, some X] O X).2)] X = (some 0, 1)
  rw [mmv_0289, mmv_3358, mmv_3739, mmv_3988, mmv_4027]
  rfl

theorem mmv_4030 : minimaxL 3 [some O, some O, none, some O, none, some X, none, some X, some X] X O = (some 2, 1) := rfl

theorem mmv_4031 : minimaxL 3 [none, some O, some O, some O, none, some X, none, some X, some X] X O = (some 6, 1) := rfl

theorem mmv_4032 : minimaxL 3 [none, some O, none, some O, some O, some X, none, some X, some X] X O = (some 2, 1) := rfl

theorem mmv_4033 : minimaxL 3 [none, some O, none, some O, none, some X, some O, some X, some X] X O = (some 2, 1) := rfl

theorem mmv_4029 : minimaxL 4 [none, some O, none, some O, none, some X, none, some X, some X] O X = (some 0, 1) := by
  rw [minimaxL_succ 3 [none, some O, none, some O, none, some X, none, some X, some X] O X [0, 2, 4, 6] rfl rfl (List.cons_ne_nil _ _)]
  show pickBest [(0, (minimaxL 3 [some O, some O, none, some O, none, some X, none, some X, some X] X O).2), (2, (minimaxL 3 [none, some O, some O, some O, none, some X, none, some X, some X] X O).2), (4, (minimaxL 3 [none, some O, none, some O, some O, some X, none, some X, some X] X O).2), (6, (minimaxL 3 [none, some O, none, some O, none, some X, some O, some X, some X] X O).2)] O = (some 0, 1)
  rw [mmv_4030, mmv_4031, mmv_4032, mmv_4033]
  rfl

theorem mmv_4028 : minimaxL 5 [none, some O, none, some O, none, some X, none, some X, none] X O = (some 8, 1) := by
  rw [minimaxL_succ 4 [none, some O, none, some O, none, some X, none, some X, none] X O [0, 2, 4, 6, 8] rfl rfl (List.cons_ne_nil _ _)]
  show pickBest [(0, (minimaxL 4 [some X, some O, none, some O, none, some X, none, some X, none] O X).2), (2, (minimaxL 4 [none, some O, some X, some O, none, some X, none, some X, none] O X).2), (4, (minimaxL 4 [none, some O, none, some O, some X, some X, none, some X, none] O X).2), (6, (minimaxL 4 [none, some O, none, some O, none, some X, some X, some X, none] O X).2), (8, (minimaxL 4 [none, some O, none, some O, none, some X, none, some X, some X] O X).2)] X = (some 8, 1)
  rw [mmv_0330, mmv_2788, mmv_3703, mmv_3993, mmv_4029]
  rfl

theorem mmv_4036 : minimaxL 3 [none, some O, some O, none, some O, some X, none, some X, some X] X O = (some 6, 1) := rfl

theorem mmv_4037 : minimaxL 3 [none, some O, none, none, some O, some X, some O, some X, some X] X O = (some 2, 1) := rfl

theorem mmv_4035 : minimaxL 4 [none, some O, none, none, some O, some X, none, some X, some X] O X = (some 0, 1) := by
  rw [minimaxL_succ 3 [none, some O, none, none, some O, some X, none, some X, some X] O X [0, 2, 3, 6] rfl rfl (List.cons_ne_nil _ _)]
  show pickBest [(0, (minimaxL 3 [some O, some O, none, none, some O, some X, none, some X, some X] X O).2), (2, (minimaxL 3 [none, some O, some O, none, some O, some X, none, some X, some X] X O).2), (3, (minimaxL 3 [none, some O, none, some O, some O, some X, none, some X, some X] X O).2), (6, (minimaxL 3 [none, some O, none, none, some O, some X, some O, some X, some X] X O).2)] O = (some 0, 1)
  rw [mmv_3966, mmv_4036, mmv_4032, mmv_4037]
  rfl

theorem mmv_4034 : minimaxL 5 [none, some O, none, none, some O, some X, none, some X, none] X O = (some 8, 1) := by
  rw [minimaxL_succ 4 [none, some O, none, none, some O, some X, none, some X, none] X O [0, 2, 3, 6, 8] rfl rfl (List.cons_ne_nil _ _)]
  show pickBest [(0, (minimaxL 4 [some X, some O, none, none, some O, some X, none, some X, none] O X).2), (2, (minimaxL 4 [none, some O, some X, none, some O, some X, none, some X, none] O X).2), (3, (minimaxL 4 [none, some O, none, some X, some O, some X, none, some X, none] O X).2), (6, (minimaxL 4 [none, some O, none, none, some O, some X, some X, some X, none] O X).2), (8, (minimaxL 4 [none, some O, none, none, some O, some X, none, some X, some X] O X).2)] X = (some 8, 1)
  rw [mmv_0345, mmv_2799, mmv_3334, mmv_4002, mmv_4035]
  rfl

theorem mmv_4040 : minimaxL 3 [some O, some O, none, none, none, some X, some O, some X, some X] X O = (some 2, 1) := rfl

theorem mmv_4042 : minimaxL 2 [none, some O, some O, none, some X, some X, some O, some X, some X] O X = (some 0, -1) := rfl

theorem mmv_4041 : minimaxL 3 [none, some O, some O, none, none, some X, some O, some X, some X] X O = (some 4, -1) := by
  rw [minimaxL_succ 2 [none, some O, some O, none, none, some X, some O, some X, some X] X O [0, 3, 4] rfl rfl (List.cons_ne_nil _ _)]
  show pickBest [(0, (minimaxL 2 [some X, some O, some O, none, none, some X, some O, some X, some X] O X).2), (3, (minimaxL 2 [none, some O, some O, some X, none, some X, some O, some X, some X] O X).2), (4, (minimaxL 2 [none, some O, some O, none, some X, some X, some O, some X, some X] O X).2)] X = (some 4, -1)
  rw [mmv_0303, mmv_3388, mmv_4042]
  rfl

theorem mmv_4039 : minimaxL 4 [none, some O, none, none, none, some X, some O, some X, some X] O X = (some 2, -1) := by
  rw [minimaxL_succ 3 [none, some O, none, none, none, some X, some O, some X, some X] O X [0, 2, 3, 4] rfl rfl (List.cons_ne_nil _ _)]
  show pickBest [(0, (minimaxL 3 [some O, some O, none, none, none, some X, some O, some X, some X] X O).2), (2, (minimaxL 3 [none, some O, some O, none, none, some X, some O, some X, some X] X O).2), (3, (minimaxL 3 [none, some O, none, some O, none, some X, some O, some X, some X] X O).2), (4, (minimaxL 3 [none, some O, none, none, some O, some X, some O, some X, some X] X O).2)] O = (some 2, -1)
  rw [mmv_4040, mmv_4041, mmv_4033, mmv_4037]
  rfl

theorem mmv_4038 : minimaxL 5 [none, some O, none, none, none, some X, some O, some X, none] X O = (some 4, 0) := by
  rw [minimaxL_succ 4 [none, some O, none, none, none, some X, some O, some X, none] X O [0, 2, 3, 4, 8] rfl rfl (List.cons_ne_nil _ _)]
  show pickBest [(0, (minimaxL 4 [some X, some O, none, none, none, some X, some O, some X, none] O X).2), (2, (minimaxL 4 [none, some O, some X, none, none, some X, some O, some X, none] O X).2), (3, (minimaxL 4 [none, some O, none, some X, none, some X, some O, some X, none] O X).2), (4, (minimaxL 4 [none, some O, none, none, some X, some X, some O, some X, none] O X).2), (8, (minimaxL 4 [none, some O, none, none, none, some X, some O, some X, some X] O X).2)] X = (some 4, 0)
  rw [mmv_0355, mmv_2812, mmv_3382, mmv_3761, mmv_4039]
  rfl

theorem mmv_4043 : minimaxL 5 [none, some O, none, none, none, some X, none, some X, some O] X O = (some 4, 0) := by
  rw [minimaxL_succ 4 [none, some O, none, none, none, some X, none, some X, some O] X O [0, 2, 3, 4, 6] rfl rfl (List.cons_ne_nil _ _)]
  show pickBest [(0, (minimaxL 4 [some X, some O, none, none, none, some X, none, some X, some O] O X).2), (2, (minimaxL 4 [none, some O, some X, none, none, some X, none, some X, some O] O X).2), (3, (minimaxL 4 [none, some O, none, some X, none, some X, none, some X, some O] O X).2), (4, (minimaxL 4 [none, some O, none, none, some X, some X, none, some X, some O] O X).2), (6, (minimaxL 4 [none, some O, none, none, none, some X, some X, some X, some O] O X).2)] X = (some 4, 0)
  rw [mmv_0372, mmv_2763, mmv_3392, mmv_3770, mmv_4020]
  rfl

theorem mmv_4025 : minimaxL 6 [none, some O, none, none, none, some X, none, some X, none] O X = (some 6, 0) := by
  rw [minimaxL_succ 5 [none, some O, none, none, none, some X, none, some X, none] O X [0, 2, 3, 4, 6, 8] rfl rfl (List.cons_ne_nil _ _)]
  show pickBest [(0, (minimaxL 5 [some O, some O, none, none, none, some X, none, some X, none] X O).2), (2, (minimaxL 5 [none, some O, some O, none, none, some X, none, some X, none] X O).2), (3, (minimaxL 5 [none, some O, none, some O, none, some X, none, some X, none] X O).2), (4, (minimaxL 5 [none, some O, none, none, some O, some X, none, some X, none] X O).2), (6, (minimaxL 5 [none, some O, none, none, none, some X, some O, some X, none] X O).2), (8, (minimaxL 5 [none, some O, none, none, none, some X, none, some X, some O] X O).2)] O = (some 6, 0)
  rw [mmv_3957, mmv_4026, mmv_4028, mmv_4034, mmv_4038, mmv_4043]
  rfl

theorem mmv_4046 : minimaxL 4 [none, some O, some O, none, some X, some X, none, none, some X] O X = (some 0, -1) := rfl

theorem mmv_4045 : minimaxL 5 [none, some O, some O, none, none, some X, none, none, some X] X O = (some 7, -1) := by
  rw [minimaxL_succ 4 [none, some O, some O, none, none, some X, none, none, some X] X O [0, 3, 4, 6, 7] rfl rfl (List.cons_ne_nil _ _)]
  show pickBest [(0, (minimaxL 4 [some X, some O, some O, none, none, some X, none, none, some X] O X).2), (3, (minimaxL 4 [none, some O, some O, some X, none, some X, none, none, some X] O X).2), (4, (minimaxL 4 [none, some O, some O, none, some X, some X, none, none, some X] O X).2), (6, (minimaxL 4 [none, some O, some O, none, none, some X, some X, none, some X] O X).2), (7, (minimaxL 4 [none, some O, some O, none, none, some X, none, some X, some X] O X).2)] X = (some 7, -1)
  rw [mmv_0308, mmv_3407, mmv_4046, mmv_3989, mmv_4027]
  rfl

theorem mmv_4047 : minimaxL 5 [none, some O, none, some O, none, some X, none, none, some X] X O = (some 2, 1) := rfl

theorem mmv_4048 : minimaxL 5 [none, some O, none, none, some O, some X, none, none, some X] X O = (some 2, 1) := rfl

theorem mmv_4049 : minimaxL 5 [none, some O, none, none, none, some X, some O, none, some X] X O = (some 2, 1) := rfl

theorem mmv_4050 : minimaxL 5 [none, some O, none, none, none, some X, none, some O, some X] X O = (some 2, 1) := rfl

theorem mmv_4044 : minimaxL 6 [none, some O, none, none, none, some X, none, none, some X] O X = (some 2, -1) := by
  rw [minimaxL_succ 5 [none, some O, none, none, none, some X, none, none, some X] O X [0, 2, 3, 4, 6, 7] rfl rfl (List.cons_ne_nil _ _)]
  show pickBest [(0, (minimaxL 5 [some O, some O, none, none, none, some X, none, none, some X] X O).2), (2, (minimaxL 5 [none, some O, some O, none, none, some X, none, none, some X] X O).2), (3, (minimaxL 5 [none, some O, none, some O, none, some X, none, none, some X] X O).2), (4, (minimaxL 5 [none, some O, none, none, some O, some X, none, none, some X] X O).2), (6, (minimaxL 5 [none, some O, none, none, none, some X, some O, none, some X] X O).2), (7, (minimaxL 5 [none, some O, none, none, none, some X, none, some O, some X] X O).2)] O = (some 2, -1)
  rw [mmv_3978, mmv_4045, mmv_4047, mmv_4048, mmv_4049, mmv_4050]
  rfl

theorem mmv_3984 : minimaxL 7 [none, some O, none, none, none, some X, none, none, none] X O = (some 4, 1) := by
  rw [minimaxL_succ 6 [none, some O, none, none, none, some X, none, none, none] X O [0, 2, 3, 4, 6, 7, 8] rfl rfl (List.cons_ne_nil _ _)]
  show pickBest [(0, (minimaxL 6 [some X, some O, none, none, none, some X, none, none, none] O X).2), (2, (minimaxL 6 [none, some O, some X, none, none, some X, none, none, none] O X).2), (3, (minimaxL 6 [none, some O, none, some X, none, some X, none, none, none] O X).2), (4, (minimaxL 6 [none, some O, none, none, some X, some X, none, none, none] O X).2), (6, (minimaxL 6 [none, some O, none, none, none, some X, some X, none, none] O X).2), (7, (minimaxL 6 [none, some O, none, none, none, some X, none, some X, none] O X).2), (8, (minimaxL 6 [none, some O, none, none, none, some X, none, none, some X] O X).2)] X = (some 4, 1)
  rw [mmv_0266, mmv_2748, mmv_3330, mmv_3691, mmv_3985, mmv_4025, mmv_4044]
  rfl

theorem mmv_4055 : minimaxL 3 [none, none, some O, some O, some O, some X, some X, some X, none] X O = (some 8, 1) := rfl

theorem mmv_4056 : minimaxL 3 [none, none, some O, some O, none, some X, some X, some X, some O] X O = (some 4, 0) := by
  rw [minimaxL_succ 2 [none, none, some O, some O, none, some X, some X, some X, some O] X O [0, 1, 4] rfl rfl (List.cons_ne_nil _ _)]
  show pickBest [(0, (minimaxL 2 [some X, none, some O, some O, none, some X, some X, some X, some O] O X).2), (1, (minimaxL 2 [none, some X, some O, some O, none, some X, some X, some X, some O] O X).2), (4, (minimaxL 2 [none, none, some O, some O, some X, some X, some X, some X, some O] O X).2)] X = (some 4, 0)
  rw [mmv_0647, mmv_1844, mmv_3793]
  rfl

theorem mmv_4054 : minimaxL 4 [none, none, some O, some O, none, some X, some X, some X, none] O X = (some 8, 0) := by
  rw [minimaxL_succ 3 [none, none, some O, some O, none, some X, some X, some X, none] O X [0, 1, 4, 8] rfl rfl (List.cons_ne_nil _ _)]
  show pickBest [(0, (minimaxL 3 [some O, none, some O, some O, none, some X, some X, some X, none] X O).2), (1, (minimaxL 3 [none, some O, some O, some O, none, some X, some X, some X, none] X O).2), (4, (minimaxL 3 [none, none, some O, some O, some O, some X, some X, some X, none] X O).2), (8, (minimaxL 3 [none, none, some O, some O, none, some X, some X, some X, some O] X O).2)] O = (some 8, 0)
  rw [mmv_3928, mmv_3994, mmv_4055, mmv_4056]
  rfl

theorem mmv_4058 : minimaxL 3 [none, none, some O, some O, some O, some X, some X, none, some X] X O = (some 7, 1) := rfl

theorem mmv_4059 : minimaxL 3 [none, none, some O, some O, none, some X, some X, some O, some X] X O = (some 4, 0) := by
  rw [minimaxL_succ 2 [none, none, some O, some O, none, some X, some X, some O, some X] X O [0, 1, 4] rfl rfl (List.cons_ne_nil _ _)]
  show pickBest [(0, (minimaxL 2 [some X, none, some O, some O, none, some X, some X, some O, some X] O X).2), (1, (minimaxL 2 [none, some X, some O, some O, none, some X, some X, some O, some X] O X).2), (4, (minimaxL 2 [none, none, some O, some O, some X, some X, some X, some O, some X] O X).2)] X = (some 4, 0)
  rw [mmv_0645, mmv_1841, mmv_3789]
  rfl

theorem mmv_4057 : minimaxL 4 [none, none, some O, some O, none, some X, some X, none, some X] O X = (some 7, 0) := by
  rw [minimaxL_succ 3 [none, none, some O, some O, none, some X, some X, none, some X] O X [0, 1, 4, 7] rfl rfl (List.cons_ne_nil _ _)]
  show pickBest [(0, (minimaxL 3 [some O, none, some O, some O, none, some X, some X, none, some X] X O).2), (1, (minimaxL 3 [none, some O, some O, some O, none, some X, some X, none, some X] X O).2), (4, (minimaxL 3 [none, none, some O, some O, some O, some X, some X, none, some X] X O).2), (7, (minimaxL 3 [none, none, some O, some O, none, some X, some X, some O, some X] X O).2)] O = (some 7, 0)
  rw [mmv_3934, mmv_3998, mmv_4058, mmv_4059]
  rfl

theorem mmv_4053 : minimaxL 5 [none, none, some O, some O, none, some X, some X, none, none] X O = (some 8, 0) := by
  rw [minimaxL_succ 4 [none, none, some O, some O, none, some X, some X, none, none] X O [0, 1, 4, 7, 8] rfl rfl (List.cons_ne_nil _ _)]
  show pickBest [(0, (minimaxL 4 [some X, none, some O, some O, none, some X, some X, none, none] O X).2), (1, (minimaxL 4 [none, some X, some O, some O, none, some X, some X, none, none] O X).2), (4, (minimaxL 4 [none, none, some O, some O, some X, some X, some X, none, none] O X).2), (7, (minimaxL 4 [none, none, some O, some O, none, some X, some X, some X, none] O X).2), (8, (minimaxL 4 [none, none, some O, some O, none, some X, some X, none, some X] O X).2)] X = (some 8, 0)
  rw [mmv_0637, mmv_1834, mmv_3787, mmv_4054, mmv_4057]
  rfl

theorem mmv_4062 : minimaxL 3 [some O, none, some O, none, some O, some X, some X, some X, none] X O = (some 8, 1) := rfl

theorem mmv_4063 : minimaxL 3 [none, none, some O, none, some O, some X, some X, some X, some O] X O = (some 0, 0) := by
  rw [minimaxL_succ 2 [none, none, some O, none, some O, some X, some X, some X, some O] X O [0, 1, 3] rfl rfl (List.cons_ne_nil _ _)]
  show pickBest [(0, (minimaxL 2 [some X, none, some O, none, some O, some X, some X, some X, some O] O X).2), (1, (minimaxL 2 [none, some X, some O, none, some O, some X, some X, some X, some O] O X).2), (3, (minimaxL 2 [none, none, some O, some X, some O, some X, some X, some X, some O] O X).2)] X = (some 0, 0)
  rw [mmv_0692, mmv_1861, mmv_3486]
  rfl

theorem mmv_4061 : minimaxL 4 [none, none, some O, none, some O, some X, some X, some X, none] O X = (some 8, 0) := by
  rw [minimaxL_succ 3 [none, none, some O, none, some O, some X, some X, some X, none] O X [0, 1, 3, 8] rfl rfl (List.cons_ne_nil _ _)]
  show pickBest [(0, (minimaxL 3 [some O, none, some O, none, some O, some X, some X, some X, none] X O).2), (1, (minimaxL 3 [none, some O, some O, none, some O, some X, some X, some X, none] X O).2), (3, (minimaxL 3 [none, none, some O, some O, some O, some X, some X, some X, none] X O).2), (8, (minimaxL 3 [none, none, some O, none, some O, some X, some X, some X, some O] X O).2)] O = (some 8, 0)
  rw [mmv_4062, mmv_4004, mmv_4055, mmv_4063]
  rfl

theorem mmv_4065 : minimaxL 3 [none, some O, some O, none, some O, some X, some X, none, some X] X O = (some 7, 1) := rfl

theorem mmv_4066 : minimaxL 3 [none, none, some O, none, some O, some X, some X, some O, some X] X O = (some 1, 0) := by
  rw [minimaxL_succ 2 [none, none, some O, none, some O, some X, some X, some O, some X] X O [0, 1, 3] rfl rfl (List.cons_ne_nil _ _)]
  show pickBest [(0, (minimaxL 2 [some X, none, some O, none, some O, some X, some X, some O, some X] O X).2), (1, (minimaxL 2 [none, some X, some O, none, some O, some X, some X, some O, some X] O X).2), (3, (minimaxL 2 [none, none, some O, some X, some O, some X, some X, some O, some X] O X).2)] X = (some 1, 0)
  rw [mmv_0682, mmv_1859, mmv_3511]
  rfl

theorem mmv_4064 : minimaxL 4 [none, none, some O, none, some O, some X, some X, none, some X] O X = (some 7, 0) := by
  rw [minimaxL_succ 3 [none, none, some O, none, some O, some X, some X, none, some X] O X [0, 1, 3, 7] rfl rfl (List.cons_ne_nil _ _)]
  show pickBest [(0, (minimaxL 3 [some O, none, some O, none, some O, some X, some X, none, some X] X O).2), (1, (minimaxL 3 [none, some O, some O, none, some O, some X, some X, none, some X] X O).2), (3, (minimaxL 3 [none, none, some O, some O, some O, some X, some X, none, some X] X O).2), (7, (minimaxL 3 [none, none, some O, none, some O, some X, some X, some O, some X] X O).2)] O = (some 7, 0)
  rw [mmv_3941, mmv_4065, mmv_4058, mmv_4066]
  rfl

theorem mmv_4060 : minimaxL 5 [none, none, some O, none, some O, some X, some X, none, none] X O = (some 8, 0) := by
  rw [minimaxL_succ 4 [none, none, some O, none, some O, some X, some X, none, none] X O [0, 1, 3, 7, 8] rfl rfl (List.cons_ne_nil _ _)]
  show pickBest [(0, (minimaxL 4 [some X, none, some O, none, some O, some X, some X, none, none] O X).2), (1, (minimaxL 4 [none, some X, some O, none, some O, some X, some X, none, none] O X).2), (3, (minimaxL 4 [none, none, some O, some X, some O, some X, some X, none, none] O X).2), (7, (minimaxL 4 [none, none, some O, none, some O, some X, some X, some X, none] O X).2), (8, (minimaxL 4 [none, none, some O, none, some O, some X, some X, none, some X] O X).2)] X = (some 8, 0)
  rw [mmv_0661, mmv_1857, mmv_3446, mmv_4061, mmv_4064]
  rfl

theorem mmv_4069 : minimaxL 3 [none, some O, some O, some X, none, some X, some X, some O, none] X O = (some 4, 1) := rfl

theorem mmv_4070 : minimaxL 3 [none, none, some O, some X, none, some X, some X, some O, some O] X O = (some 4, 1) := rfl

theorem mmv_4068 : minimaxL 4 [none, none, some O, some X, none, some X, some X, some O, none] O X = (some 0, 1) := by
  rw [minimaxL_succ 3 [none, none, some O, some X, none, some X, some X, some O, none] O X [0, 1, 4, 8] rfl rfl (List.cons_ne_nil _ _)]
  show pickBest [(0, (minimaxL 3 [some O, none, some O, some X, none, some X, some X, some O, none] X O).2), (1, (minimaxL 3 [none, some O, some O, some X, none, some X, some X, some O, none] X O).2), (4, (minimaxL 3 [none, none, some O, some X, some O, some X, some X, some O, none] X O).2), (8, (minimaxL 3 [none, none, some O, some X, none, some X, some X, some O, some O] X O).2)] O = (some 0, 1)
  rw [mmv_3217, mmv_4069, mmv_3450, mmv_4070]
  rfl

theorem mmv_4073 : minimaxL 2 [some X, some O, some O, none, none, some X, some X, some O, some X] O X = (some 4, -1) := rfl

theorem mmv_4074 : minimaxL 2 [none, some O, some O, some X, none, some X, some X, some O, some X] O X = (some 0, -1) := rfl

theorem mmv_4075 : minimaxL 2 [none, some O, some O, none, some X, some X, some X, some O, some X] O X = (some 0, -1) := rfl

theorem mmv_4072 : minimaxL 3 [none, some O, some O, none, none, some X, some X, some O, some X] X O = (some 4, -1) := by
  rw [minimaxL_succ 2 [none, some O, some O, none, none, some X, some X, some O, some X] X O [0, 3, 4] rfl rfl (List.cons_ne_nil _ _)]
  show pickBest [(0, (minimaxL 2 [some X, some O, some O, none, none, some X, some X, some O, some X] O X).2), (3, (minimaxL 2 [none, some O, some O, some X, none, some X, some X, some O, some X] O X).2), (4, (minimaxL 2 [none, some O, some O, none, some X, some X, some X, some O, some X] O X).2)] X = (some 4, -1)
  rw [mmv_4073, mmv_4074, mmv_4075]
  rfl

theorem mmv_4071 : minimaxL 4 [none, none, some O, none, none, some X, some X, some O, some X] O X = (some 1, -1) := by
  rw [minimaxL_succ 3 [none, none, some O, none, none, some X, some X, some O, some X] O X [0, 1, 3, 4] rfl rfl (List.cons_ne_nil _ _)]
  show pickBest [(0, (minimaxL 3 [some O, none, some O, none, none, some X, some X, some O, some X] X O).2), (1, (minimaxL 3 [none, some O, some O, none, none, some X, some X, some O, some X] X O).2), (3, (minimaxL 3 [none, none, some O, some O, none, some X, some X, some O, some X] X O).2), (4, (minimaxL 3 [none, none, some O, none, some O, some X, some X, some O, some X] X O).2)] O = (some 1, -1)
  rw [mmv_3951, mmv_4072, mmv_4059, mmv_4066]
  rfl

theorem mmv_4067 : minimaxL 5 [none, none, some O, none, none, some X, some X, some O, none] X O = (some 3, 1) := by
  rw [minimaxL_succ 4 [none, none, some O, none, none, some X, some X, some O, none] X O [0, 1, 3, 4, 8] rfl rfl (List.cons_ne_nil _ _)]
  show pickBest [(0, (minimaxL 4 [some X, none, some O, none, none, some X, some X, some O, none] O X).2), (1, (minimaxL 4 [none, some X, some O, none, none, some X, some X, some O, none] O X).2), (3, (minimaxL 4 [none, none, some O, some X, none, some X, some X, some O, none] O X).2), (4, (minimaxL 4 [none, none, some O, none, some X, some X, some X, some O, none] O X).2), (8, (minimaxL 4 [none, none, some O, none, none, some X, some X, some O, some X] O X).2)] X = (some 3, 1)
  rw [mmv_0677, mmv_1870, mmv_4068, mmv_3829, mmv_4071]
  rfl

theorem mmv_4078 : minimaxL 3 [some O, none, some O, some X, none, some X, some X, none, some O] X O = (some 4, 1) := rfl

theorem mmv_4077 : minimaxL 4 [none, none, some O, some X, none, some X, some X, none, some O] O X = (some 0, 1) := by
  rw [minimaxL_succ 3 [none, none, some O, some X, none, some X, some X, none, some O] O X [0, 1, 4, 7] rfl rfl (List.cons_ne_nil _ _)]
  show pickBest [(0, (minimaxL 3 [some O, none, some O, some X, none, some X, some X, none, some O] X O).2), (1, (minimaxL 3 [none, some O, some O, some X, none, some X, some X, none, some O] X O).2), (4, (minimaxL 3 [none, none, some O, some X, some O, some X, some X, none, some O] X O).2), (7, (minimaxL 3 [none, none, some O, some X, none, some X, some X, some O, some O] X O).2)] O = (some 0, 1)
  rw [mmv_4078, mmv_4016, mmv_3451, mmv_4070]
  rfl

theorem mmv_4081 : minimaxL 2 [some O, none, some O, some X, none, some X, some X, some X, some O] O X = (some 1, -1) := rfl

theorem mmv_4082 : minimaxL 2 [some O, none, some O, none, some X, some X, some X, some X, some O] O X = (some 1, -1) := rfl

theorem mmv_4080 : minimaxL 3 [some O, none, some O, none, none, some X, some X, some X, some O] X O = (some 4, -1) := by
  rw [minimaxL_succ 2 [some O, none, some O, none, none, some X, some X, some X, some O] X O [1, 3, 4] rfl rfl (List.cons_ne_nil _ _)]
  show pickBest [(1, (minimaxL 2 [some O, some X, some O, none, none, some X, some X, some X, some O] O X).2), (3, (minimaxL 2 [some O, none, some O, some X, none, some X, some X, some X, some O] O X).2), (4, (minimaxL 2 [some O, none, some O, none, some X, some X, some X, some X, some O] O X).2)] X = (some 4, -1)
  rw [mmv_1587, mmv_4081, mmv_4082]
  rfl

theorem mmv_4079 : minimaxL 4 [none, none, some O, none, none, some X, some X, some X, some O] O X = (some 0, -1) := by
  rw [minimaxL_succ 3 [none, none, some O, none, none, some X, some X, some X, some O] O X [0, 1, 3, 4] rfl rfl (List.cons_ne_nil _ _)]
  show pickBest [(0, (minimaxL 3 [some O, none, some O, none, none, some X, some X, some X, some O] X O).2), (1, (minimaxL 3 [none, some O, some O, none, none, some X, some X, some X, some O] X O).2), (3, (minimaxL 3 [none, none, some O, some O, none, some X, some X, some X, some O] X O).2), (4, (minimaxL 3 [none, none, some O, none, some O, some X, some X, some X, some O] X O).2)] O = (some 0, -1)
  rw [mmv_4080, mmv_4023, mmv_4056, mmv_4063]
  rfl

theorem mmv_4076 : minimaxL 5 [none, none, some O, none, none, some X, some X, none, some O] X O = (some 3, 1) := by
  rw [minimaxL_succ 4 [none, none, some O, none, none, some X, some X, none, some O] X O [0, 1, 3, 4, 7] rfl rfl (List.cons_ne_nil _ _)]
  show pickBest [(0, (minimaxL 4 [some X, none, some O, none, none, some X, some X, none, some O] O X).2), (1, (minimaxL 4 [none, some X, some O, none, none, some X, some X, none, some O] O X).2), (3, (minimaxL 4 [none, none, some O, some X, none, some X, some X, none, some O] O X).2), (4, (minimaxL 4 [none, none, some O, none, some X, some X, some X, none, some O] O X).2), (7, (minimaxL 4 [none, none, some O, none, none, some X, some X, some X, some O] O X).2)] X = (some 3, 1)
  rw [mmv_0688, mmv_1879, mmv_4077, mmv_3837, mmv_4079]
  rfl

theorem mmv_4052 : minimaxL 6 [none, none, some O, none, none, some X, some X, none, none] O X = (some 0, 0) := by
  rw [minimaxL_succ 5 [none, none, some O, none, none, some X, some X, none, none] O X [0, 1, 3, 4, 7, 8] rfl rfl (List.cons_ne_nil _ _)]
  show pickBest [(0, (minimaxL 5 [some O, none, some O, none, none, some X, some X, none, none] X O).2), (1, (minimaxL 5 [none, some O, some O, none, none, some X, some X, none, none] X O).2), (3, (minimaxL 5 [none, none, some O, some O, none, some X, some X, none, none] X O).2), (4, (minimaxL 5 [none, none, some O, none, some O, some X, some X, none, none] X O).2), (7, (minimaxL 5 [none, none, some O, none, none, some X, some X, some O, none] X O).2), (8, (minimaxL 5 [none, none, some O, none, none, some X, some X, none, some O] X O).2)] O = (some 0, 0)
  rw [mmv_3920, mmv_3986, mmv_4053, mmv_4060, mmv_4067, mmv_4076]
  rfl

theorem mmv_4086 : minimaxL 3 [some O, none, some O, some O, none, some X, none, some X, some X] X O = (some 6, 1) := rfl

theorem mmv_4087 : minimaxL 3 [none, none, some O, some O, some O, some X, none, some X, some X] X O = (some 6, 1) := rfl

theorem mmv_4089 : minimaxL 2 [none, none, some O, some O, some X, some X, some O, some X, some X] O X = (some 0, -1) := rfl

theorem mmv_4088 : minimaxL 3 [none, none, some O, some O, none, some X, some O, some X, some X] X O = (some 4, -1) := by
  rw [minimaxL_succ 2 [none, none, some O, some O, none, some X, some O, some X, some X] X O [0, 1, 4] rfl rfl (List.cons_ne_nil _ _)]
  show pickBest [(0, (minimaxL 2 [some X, none, some O, some O, none, some X, some O, some X, some X] O X).2), (1, (minimaxL 2 [none, some X, some O, some O, none, some X, some O, some X, some X] O X).2), (4, (minimaxL 2 [none, none, some O, some O, some X, some X, some O, some X, some X] O X).2)] X = (some 4, -1)
  rw [mmv_0653, mmv_1854, mmv_4089]
  rfl

theorem mmv_4085 : minimaxL 4 [none, none, some O, some O, none, some X, none, some X, some X] O X = (some 6, -1) := by
  rw [minimaxL_succ 3 [none, none, some O, some O, none, some X, none, some X, some X] O X [0, 1, 4, 6] rfl rfl (List.cons_ne_nil _ _)]
  show pickBest [(0, (minimaxL 3 [some O, none, some O, some O, none, some X, none, some X, some X] X O).2), (1, (minimaxL 3 [none, some O, some O, some O, none, some X, none, some X, some X] X O).2), (4, (minimaxL 3 [none, none, some O, some O, some O, some X, none, some X, some X] X O).2), (6, (minimaxL 3 [none, none, some O, some O, none, some X, some O, some X, some X] X O).2)] O = (some 6, -1)
  rw [mmv_4086, mmv_4031, mmv_4087, mmv_4088]
  rfl

theorem mmv_4084 : minimaxL 5 [none, none, some O, some O, none, some X, none, some X, none] X O = (some 6, 0) := by
  rw [minimaxL_succ 4 [none, none, some O, some O, none, some X, none, some X, none] X O [0, 1, 4, 6, 8] rfl rfl (List.cons_ne_nil _ _)]
  show pickBest [(0, (minimaxL 4 [some X, none, some O, some O, none, some X, none, some X, none] O X).2), (1, (minimaxL 4 [none, some X, some O, some O, none, some X, none, some X, none] O X).2), (4, (minimaxL 4 [none, none, some O, some O, some X, some X, none, some X, none] O X).2), (6, (minimaxL 4 [none, none, some O, some O, none, some X, some X, some X, none] O X).2), (8, (minimaxL 4 [none, none, some O, some O, none, some X, none, some X, some X] O X).2)] X = (some 6, 0)
  rw [mmv_0648, mmv_1845, mmv_3795, mmv_4054, mmv_4085]
  rfl

theorem mmv_4091 : minimaxL 4 [none, none, some O, none, some O, some X, none, some X, some X] O X = (some 6, -1) := rfl

theorem mmv_4090 : minimaxL 5 [none, none, some O, none, some O, some X, none, some X, none] X O = (some 6, 0) := by
  rw [minimaxL_succ 4 [none, none, some O, none, some O, some X, none, some X, none] X O [0, 1, 3, 6, 8] rfl rfl (List.cons_ne_nil _ _)]
  show pickBest [(0, (minimaxL 4 [some X, none, some O, none, some O, some X, none, some X, none] O X).2), (1, (minimaxL 4 [none, some X, some O, none, some O, some X, none, some X, none] O X).2), (3, (minimaxL 4 [none, none, some O, some X, some O, some X, none, some X, none] O X).2), (6, (minimaxL 4 [none, none, some O, none, some O, some X, some X, some X, none] O X).2), (8, (minimaxL 4 [none, none, some O, none, some O, some X, none, some X, some X] O X).2)] X = (some 6, 0)
  rw [mmv_0664, mmv_1862, mmv_3452, mmv_4061, mmv_4091]
  rfl

theorem mmv_4094 : minimaxL 3 [some O, none, some O, none, some X, some X, some O, some X, none] X O = (some 3, 1) := rfl

theorem mmv_4095 : minimaxL 3 [none, none, some O, none, some X, some X, some O, some X, some O] X O = (some 3, 1) := rfl

theorem mmv_4093 : minimaxL 4 [none, none, some O, none, some X, some X, some O, some X, none] O X = (some 0, 1) := by
  rw [minimaxL_succ 3 [none, none, some O, none, some X, some X, some O, some X, none] O X [0, 1, 3, 8] rfl rfl (List.cons_ne_nil _ _)]
  show pickBest [(0, (minimaxL 3 [some O, none, some O, none, some X, some X, some O, some X, none] X O).2), (1, (minimaxL 3 [none, some O, some O, none, some X, some X, some O, some X, none] X O).2), (3, (minimaxL 3 [none, none, some O, some O, some X, some X, some O, some X, none] X O).2), (8, (minimaxL 3 [none, none, some O, none, some X, some X, some O, some X, some O] X O).2)] O = (some 0, 1)
  rw [mmv_4094, mmv_3763, mmv_3797, mmv_4095]
  rfl

theorem mmv_4096 : minimaxL 4 [none, none, some O, none, none, some X, some O, some X, some X] O X = (some 4, -1) := rfl

theorem mmv_4092 : minimaxL 5 [none, none, some O, none, none, some X, some O, some X, none] X O = (some 4, 1) := by
  rw [minimaxL_succ 4 [none, none, some O, none, none, some X, some O, some X, none] X O [0, 1, 3, 4, 8] rfl rfl (List.cons_ne_nil _ _)]
  show pickBest [(0, (minimaxL 4 [some X, none, some O, none, none, some X, some O, some X, none] O X).2), (1, (minimaxL 4 [none, some X, some O, none, none, some X, some O, some X, none] O X).2), (3, (minimaxL 4 [none, none, some O, some X, none, some X, some O, some X, none] O X).2), (4, (minimaxL 4 [none, none, some O, none, some X, some X, some O, some X, none] O X).2), (8, (minimaxL 4 [none, none, some O, none, none, some X, some O, some X, some X] O X).2)] X = (some 4, 1)
  rw [mmv_0669, mmv_1867, mmv_3479, mmv_4093, mmv_4096]
  rfl

theorem mmv_4098 : minimaxL 4 [none, none, some O, none, some X, some X, none, some X, some O] O X = (some 0, 1) := by
  rw [minimaxL_succ 3 [none, none, some O, none, some X, some X, none, some X, some O] O X [0, 1, 3, 6] rfl rfl (List.cons_ne_nil _ _)]
  show pickBest [(0, (minimaxL 3 [some O, none, some O, none, some X, some X, none, some X, some O] X O).2), (1, (minimaxL 3 [none, some O, some O, none, some X, some X, none, some X, some O] X O).2), (3, (minimaxL 3 [none, none, some O, some O, some X, some X, none, some X, some O] X O).2), (6, (minimaxL 3 [none, none, some O, none, some X, some X, some O, some X, some O] X O).2)] O = (some 0, 1)
  rw [mmv_3975, mmv_3772, mmv_3798, mmv_4095]
  rfl

theorem mmv_4097 : minimaxL 5 [none, none, some O, none, none, some X, none, some X, some O] X O = (some 4, 1) := by
  rw [minimaxL_succ 4 [none, none, some O, none, none, some X, none, some X, some O] X O [0, 1, 3, 4, 6] rfl rfl (List.cons_ne_nil _ _)]
  show pickBest [(0, (minimaxL 4 [some X, none, some O, none, none, some X, none, some X, some O] O X).2), (1, (minimaxL 4 [none, some X, some O, none, none, some X, none, some X, some O] O X).2), (3, (minimaxL 4 [none, none, some O, some X, none, some X, none, some X, some O] O X).2), (4, (minimaxL 4 [none, none, some O, none, some X, some X, none, some X, some O] O X).2), (6, (minimaxL 4 [none, none, some O, none, none, some X, some X, some X, some O] O X).2)] X = (some 4, 1)
  rw [mmv_0689, mmv_1880, mmv_3483, mmv_4098, mmv_4079]
  rfl

theorem mmv_4083 : minimaxL 6 [none, none, some O, none, none, some X, none, some X, none] O X = (some 0, -1) := by
  rw [minimaxL_succ 5 [none, none, some O, none, none, some X, none, some X, none] O X [0, 1, 3, 4, 6, 8] rfl rfl (List.cons_ne_nil _ _)]
  show pickBest [(0, (minimaxL 5 [some O, none, some O, none, none, some X, none, some X, none] X O).2), (1, (minimaxL 5 [none, some O, some O, none, none, some X, none, some X, none] X O).2), (3, (minimaxL 5 [none, none, some O, some O, none, some X, none, some X, none] X O).2), (4, (minimaxL 5 [none, none, some O, none, some O, some X, none, some X, none] X O).2), (6, (minimaxL 5 [none, none, some O, none, none, some X, some O, some X, none] X O).2), (8, (minimaxL 5 [none, none, some O, none, none, some X, none, some X, some O] X O).2)] O = (some 0, -1)
  rw [mmv_3959, mmv_4026, mmv_4084, mmv_4090, mmv_4092, mmv_4097]
  rfl

theorem mmv_4100 : minimaxL 5 [none, none, some O, some O, none, some X, none, none, some X] X O = (some 6, 0) := by
  rw [minimaxL_succ 4 [none, none, some O, some O, none, some X, none, none, some X] X O [0, 1, 4, 6, 7] rfl rfl (List.cons_ne_nil _ _)]
  show pickBest [(0, (minimaxL 4 [some X, none, some O, some O, none, some X, none, none, some X] O X).2), (1, (minimaxL 4 [none, some X, some O, some O, none, some X, none, none, some X] O X).2), (4, (minimaxL 4 [none, none, some O, some O, some X, some X, none, none, some X] O X).2), (6, (minimaxL 4 [none, none, some O, some O, none, some X, some X, none, some X] O X).2), (7, (minimaxL 4 [none, none, some O, some O, none, some X, none, some X, some X] O X).2)] X = (some 6, 0)
  rw [mmv_0655, mmv_1850, mmv_3799, mmv_4057, mmv_4085]
  rfl

theorem mmv_4101 : minimaxL 5 [none, none, some O, none, some O, some X, none, none, some X] X O = (some 6, 0) := by
  rw [minimaxL_succ 4 [none, none, some O, none, some O, some X, none, none, some X] X O [0, 1, 3, 6, 7] rfl rfl (List.cons_ne_nil _ _)]
  show pickBest [(0, (minimaxL 4 [some X, none, some O, none, some O, some X, none, none, some X] O X).2), (1, (minimaxL 4 [none, some X, some O, none, some O, some X, none, none, some X] O X).2), (3, (minimaxL 4 [none, none, some O, some X, some O, some X, none, none, some X] O X).2), (6, (minimaxL 4 [none, none, some O, none, some O, some X, some X, none, some X] O X).2), (7, (minimaxL 4 [none, none, some O, none, some O, some X, none, some X, some X] O X).2)] X = (some 6, 0)
  rw [mmv_0665, mmv_1863, mmv_3453, mmv_4064, mmv_4091]
  rfl

theorem mmv_4104 : minimaxL 3 [some O, none, some O, none, some X, some X, some O, none, some X] X O = (some 3, 1) := rfl

theorem mmv_4105 : minimaxL 3 [none, some O, some O, none, some X, some X, some O, none, some X] X O = (some 3, 1) := rfl

theorem mmv_4106 : minimaxL 3 [none, none, some O, none, some X, some X, some O, some O, some X] X O = (some 3, 1) := rfl

theorem mmv_4103 : minimaxL 4 [none, none, some O, none, some X, some X, some O, none, some X] O X = (some 0, 1) := by
  rw [minimaxL_succ 3 [none, none, some O, none, some X, some X, some O, none, some X] O X [0, 1, 3, 7] rfl rfl (List.cons_ne_nil _ _)]
  show pickBest [(0, (minimaxL 3 [some O, none, some O, none, some X, some X, some O, none, some X] X O).2), (1, (minimaxL 3 [none, some O, some O, none, some X, some X, some O, none, some X] X O).2), (3, (minimaxL 3 [none, none, some O, some O, some X, some X, some O, none, some X] X O).2), (7, (minimaxL 3 [none, none, some O, none, some X, some X, some O, some O, some X] X O).2)] O = (some 0, 1)
  rw [mmv_4104, mmv_4105, mmv_3802, mmv_4106]
  rfl

theorem mmv_4102 : minimaxL 5 [none, none, some O, none, none, some X, some O, none, some X] X O = (some 4, 1) := by
  rw [minimaxL_succ 4 [none, none, some O, none, none, some X, some O, none, some X] X O [0, 1, 3, 4, 7] rfl rfl (List.cons_ne_nil _ _)]
  show pickBest [(0, (minimaxL 4 [some X, none, some O, none, none, some X, some O, none, some X] O X).2), (1, (minimaxL 4 [none, some X, some O, none, none, some X, some O, none, some X] O X).2), (3, (minimaxL 4 [none, none, some O, some X, none, some X, some O, none, some X] O X).2), (4, (minimaxL 4 [none, none, some O, none, some X, some X, some O, none, some X] O X).2), (7, (minimaxL 4 [none, none, some O, none, none, some X, some O, some X, some X] O X).2)] X = (some 4, 1)
  rw [mmv_0670, mmv_1868, mmv_3503, mmv_4103, mmv_4096]
  rfl

theorem mmv_4109 : minimaxL 3 [none, some O, some O, none, some X, some X, none, some O, some X] X O = (some 3, 1) := rfl

theorem mmv_4108 : minimaxL 4 [none, none, some O, none, some X, some X, none, some O, some X] O X = (some 0, 1) := by
  rw [minimaxL_succ 3 [none, none, some O, none, some X, some X, none, some O, some X] O X [0, 1, 3, 6] rfl rfl (List.cons_ne_nil _ _)]
  show pickBest [(0, (minimaxL 3 [some O, none, some O, none, some X, some X, none, some O, some X] X O).2), (1, (minimaxL 3 [none, some O, some O, none, some X, some X, none, some O, some X] X O).2), (3, (minimaxL 3 [none, none, some O, some O, some X, some X, none, some O, some X] X O).2), (6, (minimaxL 3 [none, none, some O, none, some X, some X, some O, some O, some X] X O).2)] O = (some 0, 1)
  rw [mmv_3683, mmv_4109, mmv_3803, mmv_4106]
  rfl

theorem mmv_4107 : minimaxL 5 [none, none, some O, none, none, some X, none, some O, some X] X O = (some 4, 1) := by
  rw [minimaxL_succ 4 [none, none, some O, none, none, some X, none, some O, some X] X O [0, 1, 3, 4, 6] rfl rfl (List.cons_ne_nil _ _)]
  show pickBest [(0, (minimaxL 4 [some X, none, some O, none, none, some X, none, some O, some X] O X).2), (1, (minimaxL 4 [none, some X, some O, none, none, some X, none, some O, some X] O X).2), (3, (minimaxL 4 [none, none, some O, some X, none, some X, none, some O, some X] O X).2), (4, (minimaxL 4 [none, none, some O, none, some X, some X, none, some O, some X] O X).2), (6, (minimaxL 4 [none, none, some O, none, none, some X, some X, some O, some X] O X).2)] X = (some 4, 1)
  rw [mmv_0679, mmv_1873, mmv_3508, mmv_4108, mmv_4071]
  rfl

theorem mmv_4099 : minimaxL 6 [none, none, some O, none, none, some X, none, none, some X] O X = (some 0, -1) := by
  rw [minimaxL_succ 5 [none, none, some O, none, none, some X, none, none, some X] O X [0, 1, 3, 4, 6, 7] rfl rfl (List.cons_ne_nil _ _)]
  show pickBest [(0, (minimaxL 5 [some O, none, some O, none, none, some X, none, none, some X] X O).2), (1, (minimaxL 5 [none, some O, some O, none, none, some X, none, none, some X] X O).2), (3, (minimaxL 5 [none, none, some O, some O, none, some X, none, none, some X] X O).2), (4, (minimaxL 5 [none, none, some O, none, some O, some X, none, none, some X] X O).2), (6, (minimaxL 5 [none, none, some O, none, none, some X, some O, none, some X] X O).2), (7, (minimaxL 5 [none, none, some O, none, none, some X, none, some O, some X] X O).2)] O = (some 0, -1)
  rw [mmv_3979, mmv_4045, mmv_4100, mmv_4101, mmv_4102, mmv_4107]
  rfl

theorem mmv_4051 : minimaxL 7 [none, none, some O, none, none, some X, none, none, none] X O = (some 6, 0) := by
  rw [minimaxL_succ 6 [none, none, some O, none, none, some X, none, none, none] X O [0, 1, 3, 4, 6, 7, 8] rfl rfl (List.cons_ne_nil _ _)]
  show pickBest [(0, (minimaxL 6 [some X, none, some O, none, none, some X, none, none, none] O X).2), (1, (minimaxL 6 [none, some X, some O, none, none, some X, none, none, none] O X).2), (3, (minimaxL 6 [none, none, some O, some X, none, some X, none, none, none] O X).2), (4, (minimaxL 6 [none, none, some O, none, some X, some X, none, none, none] O X).2), (6, (minimaxL 6 [none, none, some O, none, none, some X, some X, none, none] O X).2), (7, (minimaxL 6 [none, none, some O, none, none, some X, none, some X, none] O X).2), (8, (minimaxL 6 [none, none, some O, none, none, some X, none, none, some X] O X).2)] X = (some 6, 0)
  rw [mmv_0632, mmv_1829, mmv_3444, mmv_3785, mmv_4052, mmv_4083, mmv_4099]
  rfl

theorem mmv_4114 : minimaxL 3 [none, none, none, some O, some O, some X, some X, some X, some O] X O = (some 0, 0) := by
  rw [minimaxL_succ 2 [none, none, none, some O, some O, some X, some X, some X, some O] X O [0, 1, 2] rfl rfl (List.cons_ne_nil _ _)]
  show pickBest [(0, (minimaxL 2 [some X, none, none, some O, some O, some X, some X, some X, some O] O X).2), (1, (minimaxL 2 [none, some X, none, some O, some O, some X, some X, some X, some O] O X).2), (2, (minimaxL 2 [none, none, some X, some O, some O, some X, some X, some X, some O] O X).2)] X = (some 0, 0)
  rw [mmv_0818, mmv_1989, mmv_2856]
  rfl

theorem mmv_4113 : minimaxL 4 [none, none, none, some O, some O, some X, some X, some X, none] O X = (some 8, 0) := by
  rw [minimaxL_succ 3 [none, none, none, some O, some O, some X, some X, some X, none] O X [0, 1, 2, 8] rfl rfl (List.cons_ne_nil _ _)]
  show pickBest [(0, (minimaxL 3 [some O, none, none, some O, some O, some X, some X, some X, none] X O).2), (1, (minimaxL 3 [none, some O, none, some O, some O, some X, some X, some X, none] X O).2), (2, (minimaxL 3 [none, none, some O, some O, some O, some X, some X, some X, none] X O).2), (8, (minimaxL 3 [none, none, none, some O, some O, some X, some X, some X, some O] X O).2)] O = (some 8, 0)
  rw [mmv_3929, mmv_3995, mmv_4055, mmv_4114]
  rfl

theorem mmv_4116 : minimaxL 3 [none, none, none, some O, some O, some X, some X, some O, some X] X O = (some 2, 1) := rfl

theorem mmv_4115 : minimaxL 4 [none, none, none, some O, some O, some X, some X, none, some X] O X = (some 0, 1) := by
  rw [minimaxL_succ 3 [none, none, none, some O, some O, some X, some X, none, some X] O X [0, 1, 2, 7] rfl rfl (List.cons_ne_nil _ _)]
  show pickBest [(0, (minimaxL 3 [some O, none, none, some O, some O, some X, some X, none, some X] X O).2), (1, (minimaxL 3 [none, some O, none, some O, some O, some X, some X, none, some X] X O).2), (2, (minimaxL 3 [none, none, some O, some O, some O, some X, some X, none, some X] X O).2), (7, (minimaxL 3 [none, none, none, some O, some O, some X, some X, some O, some X] X O).2)] O = (some 0, 1)
  rw [mmv_3935, mmv_3999, mmv_4058, mmv_4116]
  rfl

theorem mmv_4112 : minimaxL 5 [none, none, none, some O, some O, some X, some X, none, none] X O = (some 8, 1) := by
  rw [minimaxL_succ 4 [none, none, none, some O, some O, some X, some X, none, none] X O [0, 1, 2, 7, 8] rfl rfl (List.cons_ne_nil _ _)]
  show pickBest [(0, (minimaxL 4 [some X, none, none, some O, some O, some X, some X, none, none] O X).2), (1, (minimaxL 4 [none, some X, none, some O, some O, some X, some X, none, none] O X).2), (2, (minimaxL 4 [none, none, some X, some O, some O, some X, some X, none, none] O X).2), (7, (minimaxL 4 [none, none, none, some O, some O, some X, some X, some X, none] O X).2), (8, (minimaxL 4 [none, none, none, some O, some O, some X, some X, none, some X] O X).2)] X = (some 8, 1)
  rw [mmv_0808, mmv_1982, mmv_2867, mmv_4113, mmv_4115]
  rfl

theorem mmv_4118 : minimaxL 4 [none, none, some X, some O, none, some X, some X, some O, none] O X = (some 0, 1) := by
  rw [minimaxL_succ 3 [none, none, some X, some O, none, some X, some X, some O, none] O X [0, 1, 4, 8] rfl rfl (List.cons_ne_nil _ _)]
  show pickBest [(0, (minimaxL 3 [some O, none, some X, some O, none, some X, some X, some O, none] X O).2), (1, (minimaxL 3 [none, some O, some X, some O, none, some X, some X, some O, none] X O).2), (4, (minimaxL 3 [none, none, some X, some O, some O, some X, some X, some O, none] X O).2), (8, (minimaxL 3 [none, none, some X, some O, none, some X, some X, some O, some O] X O).2)] O = (some 0, 1)
  rw [mmv_3925, mmv_3992, mmv_2870, mmv_2857]
  rfl

theorem mmv_4119 : minimaxL 4 [none, none, none, some O, none, some X, some X, some O, some X] O X = (some 2, 0) := by
  rw [minimaxL_succ 3 [none, none, none, some O, none, some X, some X, some O, some X] O X [0, 1, 2, 4] rfl rfl (List.cons_ne_nil _ _)]
  show pickBest [(0, (minimaxL 3 [some O, none, none, some O, none, some X, some X, some O, some X] X O).2), (1, (minimaxL 3 [none, some O, none, some O, none, some X, some X, some O, some X] X O).2), (2, (minimaxL 3 [none, none, some O, some O, none, some X, some X, some O, some X] X O).2), (4, (minimaxL 3 [none, none, none, some O, some O, some X, some X, some O, some X] X O).2)] O = (some 2, 0)
  rw [mmv_3936, mmv_4000, mmv_4059, mmv_4116]
  rfl

theorem mmv_4117 : minimaxL 5 [none, none, none, some O, none, some X, some X, some O, none] X O = (some 2, 1) := by
  rw [minimaxL_succ 4 [none, none, none, some O, none, some X, some X, some O, none] X O [0, 1, 2, 4, 8] rfl rfl (List.cons_ne_nil _ _)]
  show pickBest [(0, (minimaxL 4 [some X, none, none, some O, none, some X, some X, some O, none] O X).2), (1, (minimaxL 4 [none, some X, none, some O, none, some X, some X, some O, none] O X).2), (2, (minimaxL 4 [none, none, some X, some O, none, some X, some X, some O, none] O X).2), (4, (minimaxL 4 [none, none, none, some O, some X, some X, some X, some O, none] O X).2), (8, (minimaxL 4 [none, none, none, some O, none, some X, some X, some O, some X] O X).2)] X = (some 2, 1)
  rw [mmv_0853, mmv_2011, mmv_4118, mmv_3860, mmv_4119]
  rfl

theorem mmv_4121 : minimaxL 4 [none, none, none, some O, none, some X, some X, some X, some O] O X = (some 1, 0) := by
  rw [minimaxL_succ 3 [none, none, none, some O, none, some X, some X, some X, some O] O X [0, 1, 2, 4] rfl rfl (List.cons_ne_nil _ _)]
  show pickBest [(0, (minimaxL 3 [some O, none, none, some O, none, some X, some X, some X, some O] X O).2), (1, (minimaxL 3 [none, some O, none, some O, none, some X, some X, some X, some O] X O).2), (2, (minimaxL 3 [none, none, some O, some O, none, some X, some X, some X, some O] X O).2), (4, (minimaxL 3 [none, none, none, some O, some O, some X, some X, some X, some O] X O).2)] O = (some 1, 0)
  rw [mmv_3930, mmv_3996, mmv_4056, mmv_4114]
  rfl

theorem mmv_4120 : minimaxL 5 [none, none, none, some O, none, some X, some X, none, some O] X O = (some 7, 0) := by
  rw [minimaxL_succ 4 [none, none, none, some O, none, some X, some X, none, some O] X O [0, 1, 2, 4, 7] rfl rfl (List.cons_ne_nil _ _)]
  show pickBest [(0, (minimaxL 4 [some X, none, none, some O, none, some X, some X, none, some O] O X).2), (1, (minimaxL 4 [none, some X, none, some O, none, some X, some X, none, some O] O X).2), (2, (minimaxL 4 [none, none, some X, some O, none, some X, some X, none, some O] O X).2), (4, (minimaxL 4 [none, none, none, some O, some X, some X, some X, none, some O] O X).2), (7, (minimaxL 4 [none, none, none, some O, none, some X, some X, some X, some O] O X).2)] X = (some 7, 0)
  rw [mmv_0861, mmv_2024, mmv_2853, mmv_3865, mmv_4121]
  rfl

theorem mmv_4111 : minimaxL 6 [none, none, none, some O, none, some X, some X, none, none] O X = (some 2, 0) := by
  rw [minimaxL_succ 5 [none, none, none, some O, none, some X, some X, none, none] O X [0, 1, 2, 4, 7, 8] rfl rfl (List.cons_ne_nil _ _)]
  show pickBest [(0, (minimaxL 5 [some O, none, none, some O, none, some X, some X, none, none] X O).2), (1, (minimaxL 5 [none, some O, none, some O, none, some X, some X, none, none] X O).2), (2, (minimaxL 5 [none, none, some O, some O, none, some X, some X, none, none] X O).2), (4, (minimaxL 5 [none, none, none, some O, some O, some X, some X, none, none] X O).2), (7, (minimaxL 5 [none, none, none, some O, none, some X, some X, some O, none] X O).2), (8, (minimaxL 5 [none, none, none, some O, none, some X, some X, none, some O] X O).2)] O = (some 2, 0)
  rw [mmv_3923, mmv_3990, mmv_4053, mmv_4112, mmv_4117, mmv_4120]
  rfl

theorem mmv_4125 : minimaxL 3 [none, none, none, some O, some O, some X, some O, some X, some X] X O = (some 2, 1) := rfl

theorem mmv_4124 : minimaxL 4 [none, none, none, some O, some O, some X, none, some X, some X] O X = (some 0, 1) := by
  rw [minimaxL_succ 3 [none, none, none, some O, some O, some X, none, some X, some X] O X [0, 1, 2, 6] rfl rfl (List.cons_ne_nil _ _)]
  show pickBest [(0, (minimaxL 3 [some O, none, none, some O, some O, some X, none, some X, some X] X O).2), (1, (minimaxL 3 [none, some O, none, some O, some O, some X, none, some X, some X] X O).2), (2, (minimaxL 3 [none, none, some O, some O, some O, some X, none, some X, some X] X O).2), (6, (minimaxL 3 [none, none, none, some O, some O, some X, some O, some X, some X] X O).2)] O = (some 0, 1)
  rw [mmv_3968, mmv_4032, mmv_4087, mmv_4125]
  rfl

theorem mmv_4123 : minimaxL 5 [none, none, none, some O, some O, some X, none, some X, none] X O = (some 8, 1) := by
  rw [minimaxL_succ 4 [none, none, none, some O, some O, some X, none, some X, none] X O [0, 1, 2, 6, 8] rfl rfl (List.cons_ne_nil _ _)]
  show pickBest [(0, (minimaxL 4 [some X, none, none, some O, some O, some X, none, some X, none] O X).2), (1, (minimaxL 4 [none, some X, none, some O, some O, some X, none, some X, none] O X).2), (2, (minimaxL 4 [none, none, some X, some O, some O, some X, none, some X, none] O X).2), (6, (minimaxL 4 [none, none, none, some O, some O, some X, some X, some X, none] O X).2), (8, (minimaxL 4 [none, none, none, some O, some O, some X, none, some X, some X] O X).2)] X = (some 8, 1)
  rw [mmv_0819, mmv_1990, mmv_2878, mmv_4113, mmv_4124]
  rfl

theorem mmv_4127 : minimaxL 4 [none, none, none, some O, none, some X, some O, some X, some X] O X = (some 0, -1) := rfl

theorem mmv_4126 : minimaxL 5 [none, none, none, some O, none, some X, some O, some X, none] X O = (some 0, 1) := by
  rw [minimaxL_succ 4 [none, none, none, some O, none, some X, some O, some X, none] X O [0, 1, 2, 4, 8] rfl rfl (List.cons_ne_nil _ _)]
  show pickBest [(0, (minimaxL 4 [some X, none, none, some O, none, some X, some O, some X, none] O X).2), (1, (minimaxL 4 [none, some X, none, some O, none, some X, some O, some X, none] O X).2), (2, (minimaxL 4 [none, none, some X, some O, none, some X, some O, some X, none] O X).2), (4, (minimaxL 4 [none, none, none, some O, some X, some X, some O, some X, none] O X).2), (8, (minimaxL 4 [none, none, none, some O, none, some X, some O, some X, some X] O X).2)] X = (some 0, 1)
  rw [mmv_0841, mmv_2005, mmv_2891, mmv_3854, mmv_4127]
  rfl

theorem mmv_4128 : minimaxL 5 [none, none, none, some O, none, some X, none, some X, some O] X O = (some 6, 0) := by
  rw [minimaxL_succ 4 [none, none, none, some O, none, some X, none, some X, some O] X O [0, 1, 2, 4, 6] rfl rfl (List.cons_ne_nil _ _)]
  show pickBest [(0, (minimaxL 4 [some X, none, none, some O, none, some X, none, some X, some O] O X).2), (1, (minimaxL 4 [none, some X, none, some O, none, some X, none, some X, some O] O X).2), (2, (minimaxL 4 [none, none, some X, some O, none, some X, none, some X, some O] O X).2), (4, (minimaxL 4 [none, none, none, some O, some X, some X, none, some X, some O] O X).2), (6, (minimaxL 4 [none, none, none, some O, none, some X, some X, some X, some O] O X).2)] X = (some 6, 0)
  rw [mmv_0862, mmv_2025, mmv_2858, mmv_3866, mmv_4121]
  rfl

theorem mmv_4122 : minimaxL 6 [none, none, none, some O, none, some X, none, some X, none] O X = (some 2, 0) := by
  rw [minimaxL_succ 5 [none, none, none, some O, none, some X, none, some X, none] O X [0, 1, 2, 4, 6, 8] rfl rfl (List.cons_ne_nil _ _)]
  show pickBest [(0, (minimaxL 5 [some O, none, none, some O, none, some X, none, some X, none] X O).2), (1, (minimaxL 5 [none, some O, none, some O, none, some X, none, some X, none] X O).2), (2, (minimaxL 5 [none, none, some O, some O, none, some X, none, some X, none] X O).2), (4, (minimaxL 5 [none, none, none, some O, some O, some X, none, some X, none] X O).2), (6, (minimaxL 5 [none, none, none, some O, none, some X, some O, some X, none] X O).2), (8, (minimaxL 5 [none, none, none, some O, none, some X, none, some X, some O] X O).2)] O = (some 2, 0)
  rw [mmv_3962, mmv_4028, mmv_4084, mmv_4123, mmv_4126, mmv_4128]
  rfl

theorem mmv_4130 : minimaxL 5 [none, none, none, some O, some O, some X, none, none, some X] X O = (some 2, 1) := rfl

theorem mmv_4131 : minimaxL 5 [none, none, none, some O, none, some X, some O, none, some X] X O = (some 2, 1) := rfl

theorem mmv_4132 : minimaxL 5 [none, none, none, some O, none, some X, none, some O, some X] X O = (some 2, 1) := rfl

theorem mmv_4129 : minimaxL 6 [none, none, none, some O, none, some X, none, none, some X] O X = (some 2, 0) := by
  rw [minimaxL_succ 5 [none, none, none, some O, none, some X, none, none, some X] O X [0, 1, 2, 4, 6, 7] rfl rfl (List.cons_ne_nil _ _)]
  show pickBest [(0, (minimaxL 5 [some O, none, none, some O, none, some X, none, none, some X] X O).2), (1, (minimaxL 5 [none, some O, none, some O, none, some X, none, none, some X] X O).2), (2, (minimaxL 5 [none, none, some O, some O, none, some X, none, none, some X] X O).2), (4, (minimaxL 5 [none, none, none, some O, some O, some X, none, none, some X] X O).2), (6, (minimaxL 5 [none, none, none, some O, none, some X, some O, none, some X] X O).2), (7, (minimaxL 5 [none, none, none, some O, none, some X, none, some O, some X] X O).2)] O = (some 2, 0)
  rw [mmv_3980, mmv_4047, mmv_4100, mmv_4130, mmv_4131, mmv_4132]
  rfl

theorem mmv_4110 : minimaxL 7 [none, none, none, some O, none, some X, none, none, none] X O = (some 8, 0) := by
  rw [minimaxL_succ 6 [none, none, none, some O, none, some X, none, none, none] X O [0, 1, 2, 4, 6, 7, 8] rfl rfl (List.cons_ne_nil _ _)]
  show pickBest [(0, (minimaxL 6 [some X, none, none, some O, none, some X, none, none, none] O X).2), (1, (minimaxL 6 [none, some X, none, some O, none, some X, none, none, none] O X).2), (2, (minimaxL 6 [none, none, some X, some O, none, some X, none, none, none] O X).2), (4, (minimaxL 6 [none, none, none, some O, some X, some X, none, none, none] O X).2), (6, (minimaxL 6 [none, none, none, some O, none, some X, some X, none, none] O X).2), (7, (minimaxL 6 [none, none, none, some O, none, some X, none, some X, none] O X).2), (8, (minimaxL 6 [none, none, none, some O, none, some X, none, none, some X] O X).2)] X = (some 8, 0)
  rw [mmv_0798, mmv_1975, mmv_2843, mmv_3852, mmv_4111, mmv_4122, mmv_4129]
  rfl

theorem mmv_4136 : minimaxL 4 [none, none, none, none, some O, some X, some X, some O, some X] O X = (some 1, -1) := rfl

theorem mmv_4135 : minimaxL 5 [none, none, none, none, some O, some X, some X, some O, none] X O = (some 1, 0) := by
  rw [minimaxL_succ 4 [none, none, none, none, some O, some X, some X, some O, none] X O [0, 1, 2, 3, 8] rfl rfl (List.cons_ne_nil _ _)]
  show pickBest [(0, (minimaxL 4 [some X, none, none, none, some O, some X, some X, some O, none] O X).2), (1, (minimaxL 4 [none, some X, none, none, some O, some X, some X, some O, none] O X).2), (2, (minimaxL 4 [none, none, some X, none, some O, some X, some X, some O, none] O X).2), (3, (minimaxL 4 [none, none, none, some X, some O, some X, some X, some O, none] O X).2), (8, (minimaxL 4 [none, none, none, none, some O, some X, some X, some O, some X] O X).2)] X = (some 1, 0)
  rw [mmv_0984, mmv_2177, mmv_2968, mmv_3521, mmv_4136]
  rfl

theorem mmv_4138 : minimaxL 4 [none, none, none, none, some O, some X, some X, some X, some O] O X = (some 0, -1) := rfl

theorem mmv_4137 : minimaxL 5 [none, none, none, none, some O, some X, some X, none, some O] X O = (some 0, 0) := by
  rw [minimaxL_succ 4 [none, none, none, none, some O, some X, some X, none, some O] X O [0, 1, 2, 3, 7] rfl rfl (List.cons_ne_nil _ _)]
  show pickBest [(0, (minimaxL 4 [some X, none, none, none, some O, some X, some X, none, some O] O X).2), (1, (minimaxL 4 [none, some X, none, none, some O, some X, some X, none, some O] O X).2), (2, (minimaxL 4 [none, none, some X, none, some O, some X, some X, none, some O] O X).2), (3, (minimaxL 4 [none, none, none, some X, some O, some X, some X, none, some O] O X).2), (7, (minimaxL 4 [none, none, none, none, some O, some X, some X, some X, some O] O X).2)] X = (some 0, 0)
  rw [mmv_0997, mmv_2185, mmv_2959, mmv_3524, mmv_4138]
  rfl

theorem mmv_4134 : minimaxL 6 [none, none, none, none, some O, some X, some X, none, none] O X = (some 1, 0) := by
  rw [minimaxL_succ 5 [none, none, none, none, some O, some X, some X, none, none] O X [0, 1, 2, 3, 7, 8] rfl rfl (List.cons_ne_nil _ _)]
  show pickBest [(0, (minimaxL 5 [some O, none, none, none, some O, some X, some X, none, none] X O).2), (1, (minimaxL 5 [none, some O, none, none, some O, some X, some X, none, none] X O).2), (2, (minimaxL 5 [none, none, some O, none, some O, some X, some X, none, none] X O).2), (3, (minimaxL 5 [none, none, none, some O, some O, some X, some X, none, none] X O).2), (7, (minimaxL 5 [none, none, none, none, some O, some X, some X, some O, none] X O).2), (8, (minimaxL 5 [none, none, none, none, some O, some X, some X, none, some O] X O).2)] O = (some 1, 0)
  rw [mmv_3937, mmv_4001, mmv_4060, mmv_4112, mmv_4135, mmv_4137]
  rfl

theorem mmv_4141 : minimaxL 4 [none, none, none, none, some O, some X, some O, some X, some X] O X = (some 2, -1) := rfl

theorem mmv_4140 : minimaxL 5 [none, none, none, none, some O, some X, some O, some X, none] X O = (some 2, 0) := by
  rw [minimaxL_succ 4 [none, none, none, none, some O, some X, some O, some X, none] X O [0, 1, 2, 3, 8] rfl rfl (List.cons_ne_nil _ _)]
  show pickBest [(0, (minimaxL 4 [some X, none, none, none, some O, some X, some O, some X, none] O X).2), (1, (minimaxL 4 [none, some X, none, none, some O, some X, some O, some X, none] O X).2), (2, (minimaxL 4 [none, none, some X, none, some O, some X, some O, some X, none] O X).2), (3, (minimaxL 4 [none, none, none, some X, some O, some X, some O, some X, none] O X).2), (8, (minimaxL 4 [none, none, none, none, some O, some X, some O, some X, some X] O X).2)] X = (some 2, 0)
  rw [mmv_0976, mmv_2172, mmv_2979, mmv_3518, mmv_4141]
  rfl

theorem mmv_4142 : minimaxL 5 [none, none, none, none, some O, some X, none, some X, some O] X O = (some 0, 0) := by
  rw [minimaxL_succ 4 [none, none, none, none, some O, some X, none, some X, some O] X O [0, 1, 2, 3, 6] rfl rfl (List.cons_ne_nil _ _)]
  show pickBest [(0, (minimaxL 4 [some X, none, none, none, some O, some X, none, some X, some O] O X).2), (1, (minimaxL 4 [none, some X, none, none, some O, some X, none, some X, some O] O X).2), (2, (minimaxL 4 [none, none, some X, none, some O, some X, none, some X, some O] O X).2), (3, (minimaxL 4 [none, none, none, some X, some O, some X, none, some X, some O] O X).2), (6, (minimaxL 4 [none, none, none, none, some O, some X, some X, some X, some O] O X).2)] X = (some 0, 0)
  rw [mmv_0999, mmv_2186, mmv_2960, mmv_3525, mmv_4138]
  rfl

theorem mmv_4139 : minimaxL 6 [none, none, none, none, some O, some X, none, some X, none] O X = (some 2, 0) := by
  rw [minimaxL_succ 5 [none, none, none, none, some O, some X, none, some X, none] O X [0, 1, 2, 3, 6, 8] rfl rfl (List.cons_ne_nil _ _)]
  show pickBest [(0, (minimaxL 5 [some O, none, none, none, some O, some X, none, some X, none] X O).2), (1, (minimaxL 5 [none, some O, none, none, some O, some X, none, some X, none] X O).2), (2, (minimaxL 5 [none, none, some O, none, some O, some X, none, some X, none] X O).2), (3, (minimaxL 5 [none, none, none, some O, some O, some X, none, some X, none] X O).2), (6, (minimaxL 5 [none, none, none, none, some O, some X, some O, some X, none] X O).2), (8, (minimaxL 5 [none, none, none, none, some O, some X, none, some X, some O] X O).2)] O = (some 2, 0)
  rw [mmv_3964, mmv_4034, mmv_4090, mmv_4123, mmv_4140, mmv_4142]
  rfl

theorem mmv_4144 : minimaxL 5 [none, none, none, none, some O, some X, some O, none, some X] X O = (some 2, 1) := rfl

theorem mmv_4145 : minimaxL 5 [none, none, none, none, some O, some X, none, some O, some X] X O = (some 2, 1) := rfl

theorem mmv_4143 : minimaxL 6 [none, none, none, none, some O, some X, none, none, some X] O X = (some 2, 0) := by
  rw [minimaxL_succ 5 [none, none, none, none, some O, some X, none, none, some X] O X [0, 1, 2, 3, 6, 7] rfl rfl (List.cons_ne_nil _ _)]
  show pickBest [(0, (minimaxL 5 [some O, none, none, none, some O, some X, none, none, some X] X O).2), (1, (minimaxL 5 [none, some O, none, none, some O, some X, none, none, some X] X O).2), (2, (minimaxL 5 [none, none, some O, none, some O, some X, none, none, some X] X O).2), (3, (minimaxL 5 [none, none, none, some O, some O, some X, none, none, some X] X O).2), (6, (minimaxL 5 [none, none, none, none, some O, some X, some O, none, some X] X O).2), (7, (minimaxL 5 [none, none, none, none, some O, some X, none, some O, some X] X O).2)] O = (some 2, 0)
  rw [mmv_3981, mmv_4048, mmv_4101, mmv_4130, mmv_4144, mmv_4145]
  rfl

theorem mmv_4133 : minimaxL 7 [none, none, none, none, some O, some X, none, none, none] X O = (some 8, 0) := by
  rw [minimaxL_succ 6 [none, none, none, none, some O, some X, none, none, none] X O [0, 1, 2, 3, 6, 7, 8] rfl rfl (List.cons_ne_nil _ _)]
  show pickBest [(0, (minimaxL 6 [some X, none, none, none, some O, some X, none, none, none] O X).2), (1, (minimaxL 6 [none, some X, none, none, some O, some X, none, none, none] O X).2), (2, (minimaxL 6 [none, none, some X, none, some O, some X, none, none, none] O X).2), (3, (minimaxL 6 [none, none, none, some X, some O, some X, none, none, none] O X).2), (6, (minimaxL 6 [none, none, none, none, some O, some X, some X, none, none] O X).2), (7, (minimaxL 6 [none, none, none, none, some O, some X, none, some X, none] O X).2), (8, (minimaxL 6 [none, none, none, none, some O, some X, none, none, some X] O X).2)] X = (some 8, 0)
  rw [mmv_0970, mmv_2166, mmv_2955, mmv_3516, mmv_4134, mmv_4139, mmv_4143]
  rfl

theorem mmv_4149 : minimaxL 4 [none, none, none, none, some X, some X, some O, some X, some O] O X = (some 0, 1) := by
  rw [minimaxL_succ 3 [none, none, none, none, some X, some X, some O, some X, some O] O X [0, 1, 2, 3] rfl rfl (List.cons_ne_nil _ _)]
  show pickBest [(0, (minimaxL 3 [some O, none, none, none, some X, some X, some O, some X, some O] X O).2), (1, (minimaxL 3 [none, some O, none, none, some X, some X, some O, some X, some O] X O).2), (2, (minimaxL 3 [none, none, some O, none, some X, some X, some O, some X, some O] X O).2), (3, (minimaxL 3 [none, none, none, some O, some X, some X, some O, some X, some O] X O).2)] O = (some 0, 1)
  rw [mmv_3976, mmv_3764, mmv_4095, mmv_3868]
  rfl

theorem mmv_4148 : minimaxL 5 [none, none, none, none, none, some X, some O, some X, some O] X O = (some 4, 1) := by
  rw [minimaxL_succ 4 [none, none, none, none, none, some X, some O, some X, some O] X O [0, 1, 2, 3, 4] rfl rfl (List.cons_ne_nil _ _)]
  show pickBest [(0, (minimaxL 4 [some X, none, none, none, none, some X, some O, some X, some O] O X).2), (1, (minimaxL 4 [none, some X, none, none, none, some X, some O, some X, some O] O X).2), (2, (minimaxL 4 [none, none, some X, none, none, some X, some O, some X, some O] O X).2), (3, (minimaxL 4 [none, none, none, some X, none, some X, some O, some X, some O] O X).2), (4, (minimaxL 4 [none, none, none, none, some X, some X, some O, some X, some O] O X).2)] X = (some 4, 1)
  rw [mmv_1191, mmv_2355, mmv_3091, mmv_3588, mmv_4149]
  rfl

theorem mmv_4147 : minimaxL 6 [none, none, none, none, none, some X, some O, some X, none] O X = (some 0, -1) := by
  rw [minimaxL_succ 5 [none, none, none, none, none, some X, some O, some X, none] O X [0, 1, 2, 3, 4, 8] rfl rfl (List.cons_ne_nil _ _)]
  show pickBest [(0, (minimaxL 5 [some O, none, none, none, none, some X, some O, some X, none] X O).2), (1, (minimaxL 5 [none, some O, none, none, none, some X, some O, some X, none] X O).2), (2, (minimaxL 5 [none, none, some O, none, none, some X, some O, some X, none] X O).2), (3, (minimaxL 5 [none, none, none, some O, none, some X, some O, some X, none] X O).2), (4, (minimaxL 5 [none, none, none, none, some O, some X, some O, some X, none] X O).2), (8, (minimaxL 5 [none, none, none, none, none, some X, some O, some X, some O] X O).2)] O = (some 0, -1)
  rw [mmv_3970, mmv_4038, mmv_4092, mmv_4126, mmv_4140, mmv_4148]
  rfl

theorem mmv_4151 : minimaxL 5 [none, none, none, none, none, some X, some O, some O, some X] X O = (some 2, 1) := rfl

theorem mmv_4150 : minimaxL 6 [none, none, none, none, none, some X, some O, none, some X] O X = (some 0, 1) := by
  rw [minimaxL_succ 5 [none, none, none, none, none, some X, some O, none, some X] O X [0, 1, 2, 3, 4, 7] rfl rfl (List.cons_ne_nil _ _)]
  show pickBest [(0, (minimaxL 5 [some O, none, none, none, none, some X, some O, none, some X] X O).2), (1, (minimaxL 5 [none, some O, none, none, none, some X, some O, none, some X] X O).2), (2, (minimaxL 5 [none, none, some O, none, none, some X, some O, none, some X] X O).2), (3, (minimaxL 5 [none, none, none, some O, none, some X, some O, none, some X] X O).2), (4, (minimaxL 5 [none, none, none, none, some O, some X, some O, none, some X] X O).2), (7, (minimaxL 5 [none, none, none, none, none, some X, some O, some O, some X] X O).2)] O = (some 0, 1)
  rw [mmv_3982, mmv_4049, mmv_4102, mmv_4131, mmv_4144, mmv_4151]
  rfl

theorem mmv_4146 : minimaxL 7 [none, none, none, none, none, some X, some O, none, none] X O = (some 8, 1) := by
  rw [minimaxL_succ 6 [none, none, none, none, none, some X, some O, none, none] X O [0, 1, 2, 3, 4, 7, 8] rfl rfl (List.cons_ne_nil _ _)]
  show pickBest [(0, (minimaxL 6 [some X, none, none, none, none, some X, some O, none, none] O X).2), (1, (minimaxL 6 [none, some X, none, none, none, some X, some O, none, none] O X).2), (2, (minimaxL 6 [none, none, some X, none, none, some X, some O, none, none] O X).2), (3, (minimaxL 6 [none, none, none, some X, none, some X, some O, none, none] O X).2), (4, (minimaxL 6 [none, none, none, none, some X, some X, some O, none, none] O X).2), (7, (minimaxL 6 [none, none, none, none, none, some X, some O, some X, none] O X).2), (8, (minimaxL 6 [none, none, none, none, none, some X, some O, none, some X] O X).2)] X = (some 8, 1)
  rw [mmv_1181, mmv_2348, mmv_3088, mmv_3582, mmv_3892, mmv_4147, mmv_4150]
  rfl

theorem mmv_4156 : minimaxL 3 [none, none, none, some X, some O, some X, some X, some O, some O] X O = (some 0, 1) := rfl

theorem mmv_4155 : minimaxL 4 [none, none, none, some X, none, some X, some X, some O, some O] O X = (some 0, 1) := by
  rw [minimaxL_succ 3 [none, none, none, some X, none, some X, some X, some O, some O] O X [0, 1, 2, 4] rfl rfl (List.cons_ne_nil _ _)]
  show pickBest [(0, (minimaxL 3 [some O, none, none, some X, none, some X, some X, some O, some O] X O).2), (1, (minimaxL 3 [none, some O, none, some X, none, some X, some X, some O, some O] X O).2), (2, (minimaxL 3 [none, none, some O, some X, none, some X, some X, some O, some O] X O).2), (4, (minimaxL 3 [none, none, none, some X, some O, some X, some X, some O, some O] X O).2)] O = (some 0, 1)
  rw [mmv_3219, mmv_4018, mmv_4070, mmv_4156]
  rfl

theorem mmv_4157 : minimaxL 4 [none, none, none, none, some X, some X, some X, some O, some O] O X = (some 0, 1) := by
  rw [minimaxL_succ 3 [none, none, none, none, some X, some X, some X, some O, some O] O X [0, 1, 2, 3] rfl rfl (List.cons_ne_nil _ _)]
  show pickBest [(0, (minimaxL 3 [some O, none, none, none, some X, some X, some X, some O, some O] X O).2), (1, (minimaxL 3 [none, some O, none, none, some X, some X, some X, some O, some O] X O).2), (2, (minimaxL 3 [none, none, some O, none, some X, some X, some X, some O, some O] X O).2), (3, (minimaxL 3 [none, none, none, some O, some X, some X, some X, some O, some O] X O).2)] O = (some 0, 1)
  rw [mmv_3948, mmv_4011, mmv_3832, mmv_3861]
  rfl

theorem mmv_4154 : minimaxL 5 [none, none, none, none, none, some X, some X, some O, some O] X O = (some 4, 1) := by
  rw [minimaxL_succ 4 [none, none, none, none, none, some X, some X, some O, some O] X O [0, 1, 2, 3, 4] rfl rfl (List.cons_ne_nil _ _)]
  show pickBest [(0, (minimaxL 4 [some X, none, none, none, none, some X, some X, some O, some O] O X).2), (1, (minimaxL 4 [none, some X, none, none, none, some X, some X, some O, some O] O X).2), (2, (minimaxL 4 [none, none, some X, none, none, some X, some X, some O, some O] O X).2), (3, (minimaxL 4 [none, none, none, some X, none, some X, some X, some O, some O] O X).2), (4, (minimaxL 4 [none, none, none, none, some X, some X, some X, some O, some O] O X).2)] X = (some 4, 1)
  rw [mmv_1220, mmv_2383, mmv_3114, mmv_4155, mmv_4157]
  rfl

theorem mmv_4153 : minimaxL 6 [none, none, none, none, none, some X, some X, some O, none] O X = (some 4, 0) := by
  rw [minimaxL_succ 5 [none, none, none, none, none, some X, some X, some O, none] O X [0, 1, 2, 3, 4, 8] rfl rfl (List.cons_ne_nil _ _)]
  show pickBest [(0, (minimaxL 5 [some O, none, none, none, none, some X, some X, some O, none] X O).2), (1, (minimaxL 5 [none, some O, none, none, none, some X, some X, some O, none] X O).2), (2, (minimaxL 5 [none, none, some O, none, none, some X, some X, some O, none] X O).2), (3, (minimaxL 5 [none, none, none, some O, none, some X, some X, some O, none] X O).2), (4, (minimaxL 5 [none, none, none, none, some O, some X, some X, some O, none] X O).2), (8, (minimaxL 5 [none, none, none, none, none, some X, some X, some O, some O] X O).2)] O = (some 4, 0)
  rw [mmv_3943, mmv_4007, mmv_4067, mmv_4117, mmv_4135, mmv_4154]
  rfl

theorem mmv_4158 : minimaxL 6 [none, none, none, none, none, some X, none, some O, some X] O X = (some 0, 1) := by
  rw [minimaxL_succ 5 [none, none, none, none, none, some X, none, some O, some X] O X [0, 1, 2, 3, 4, 6] rfl rfl (List.cons_ne_nil _ _)]
  show pickBest [(0, (minimaxL 5 [some O, none, none, none, none, some X, none, some O, some X] X O).2), (1, (minimaxL 5 [none, some O, none, none, none, some X, none, some O, some X] X O).2), (2, (minimaxL 5 [none, none, some O, none, none, some X, none, some O, some X] X O).2), (3, (minimaxL 5 [none, none, none, some O, none, some X, none, some O, some X] X O).2), (4, (minimaxL 5 [none, none, none, none, some O, some X, none, some O, some X] X O).2), (6, (minimaxL 5 [none, none, none, none, none, some X, some O, some O, some X] X O).2)] O = (some 0, 1)
  rw [mmv_3983, mmv_4050, mmv_4107, mmv_4132, mmv_4145, mmv_4151]
  rfl

theorem mmv_4152 : minimaxL 7 [none, none, none, none, none, some X, none, some O, none] X O = (some 8, 1) := by
  rw [minimaxL_succ 6 [none, none, none, none, none, some X, none, some O, none] X O [0, 1, 2, 3, 4, 6, 8] rfl rfl (List.cons_ne_nil _ _)]
  show pickBest [(0, (minimaxL 6 [some X, none, none, none, none, some X, none, some O, none] O X).2), (1, (minimaxL 6 [none, some X, none, none, none, some X, none, some O, none] O X).2), (2, (minimaxL 6 [none, none, some X, none, none, some X, none, some O, none] O X).2), (3, (minimaxL 6 [none, none, none, some X, none, some X, none, some O, none] O X).2), (4, (minimaxL 6 [none, none, none, none, some X, some X, none, some O, none] O X).2), (6, (minimaxL 6 [none, none, none, none, none, some X, some X, some O, none] O X).2), (8, (minimaxL 6 [none, none, none, none, none, some X, none, some O, some X] O X).2)] X = (some 8, 1)
  rw [mmv_1215, mmv_2380, mmv_3111, mmv_3598, mmv_3900, mmv_4153, mmv_4158]
  rfl

theorem mmv_4160 : minimaxL 6 [none, none, none, none, none, some X, some X, none, some O] O X = (some 3, 0) := by
  rw [minimaxL_succ 5 [none, none, none, none, none, some X, some X, none, some O] O X [0, 1, 2, 3, 4, 7] rfl rfl (List.cons_ne_nil _ _)]
  show pickBest [(0, (minimaxL 5 [some O, none, none, none, none, some X, some X, none, some O] X O).2), (1, (minimaxL 5 [none, some O, none, none, none, some X, some X, none, some O] X O).2), (2, (minimaxL 5 [none, none, some O, none, none, some X, some X, none, some O] X O).2), (3, (minimaxL 5 [none, none, none, some O, none, some X, some X, none, some O] X O).2), (4, (minimaxL 5 [none, none, none, none, some O, some X, some X, none, some O] X O).2), (7, (minimaxL 5 [none, none, none, none, none, some X, some X, some O, some O] X O).2)] O = (some 3, 0)
  rw [mmv_3952, mmv_4013, mmv_4076, mmv_4120, mmv_4137, mmv_4154]
  rfl

theorem mmv_4161 : minimaxL 6 [none, none, none, none, none, some X, none, some X, some O] O X = (some 1, 0) := by
  rw [minimaxL_succ 5 [none, none, none, none, none, some X, none, some X, some O] O X [0, 1, 2, 3, 4, 6] rfl rfl (List.cons_ne_nil _ _)]
  show pickBest [(0, (minimaxL 5 [some O, none, none, none, none, some X, none, some X, some O] X O).2), (1, (minimaxL 5 [none, some O, none, none, none, some X, none, some X, some O] X O).2), (2, (minimaxL 5 [none, none, some O, none, none, some X, none, some X, some O] X O).2), (3, (minimaxL 5 [none, none, none, some O, none, some X, none, some X, some O] X O).2), (4, (minimaxL 5 [none, none, none, none, some O, some X, none, some X, some O] X O).2), (6, (minimaxL 5 [none, none, none, none, none, some X, some O, some X, some O] X O).2)] O = (some 1, 0)
  rw [mmv_3973, mmv_4043, mmv_4097, mmv_4128, mmv_4142, mmv_4148]
  rfl

theorem mmv_4159 : minimaxL 7 [none, none, none, none, none, some X, none, none, some O] X O = (some 7, 0) := by
  rw [minimaxL_succ 6 [none, none, none, none, none, some X, none, none, some O] X O [0, 1, 2, 3, 4, 6, 7] rfl rfl (List.cons_ne_nil _ _)]
  show pickBest [(0, (minimaxL 6 [some X, none, none, none, none, some X, none, none, some O] O X).2), (1, (minimaxL 6 [none, some X, none, none, none, some X, none, none, some O] O X).2), (2, (minimaxL 6 [none, none, some X, none, none, some X, none, none, some O] O X).2), (3, (minimaxL 6 [none, none, none, some X, none, some X, none, none, some O] O X).2), (4, (minimaxL 6 [none, none, none, none, some X, some X, none, none, some O] O X).2), (6, (minimaxL 6 [none, none, none, none, none, some X, some X, none, some O] O X).2), (7, (minimaxL 6 [none, none, none, none, none, some X, none, some X, some O] O X).2)] X = (some 7, 0)
  rw [mmv_1229, mmv_2393, mmv_3125, mmv_3605, mmv_3906, mmv_4160, mmv_4161]
  rfl

theorem mmv_3909 : minimaxL 8 [none, none, none, none, none, some X, none, none, none] O X = (some 2, 0) := by
  rw [minimaxL_succ 7 [none, none, none, none, none, some X, none, none, none] O X [0, 1, 2, 3, 4, 6, 7, 8] rfl rfl (List.cons_ne_nil _ _)]
  show pickBest [(0, (minimaxL 7 [some O, none, none, none, none, some X, none, none, none] X O).2), (1, (minimaxL 7 [none, some O, none, none, none, some X, none, none, none] X O).2), (2, (minimaxL 7 [none, none, some O, none, none, some X, none, none, none] X O).2), (3, (minimaxL 7 [none, none, none, some O, none, some X, none, none, none] X O).2), (4, (minimaxL 7 [none, none, none, none, some O, some X, none, none, none] X O).2), (6, (minimaxL 7 [none, none, none, none, none, some X, some O, none, none] X O).2), (7, (minimaxL 7 [none, none, none, none, none, some X, none, some O, none] X O).2), (8, (minimaxL 7 [none, none, none, none, none, some X, none, none, some O] X O).2)] O = (some 2, 0)
  rw [mmv_3910, mmv_3984, mmv_4051, mmv_4110, mmv_4133, mmv_4146, mmv_4152, mmv_4159]
  rfl

theorem mmv_4165 : minimaxL 5 [some O, some O, none, none, none, none, some X, some X, none] X O = (some 8, 1) := rfl

theorem mmv_4166 : minimaxL 5 [some O, none, some O, none, none, none, some X, some X, none] X O = (some 8, 1) := rfl

theorem mmv_4167 : minimaxL 5 [some O, none, none, some O, none, none, some X, some X, none] X O = (some 8, 1) := rfl

theorem mmv_4168 : minimaxL 5 [some O, none, none, none, some O, none, some X, some X, none] X O = (some 8, 1) := rfl

theorem mmv_4169 : minimaxL 5 [some O, none, none, none, none, some O, some X, some X, none] X O = (some 8, 1) := rfl

theorem mmv_4172 : minimaxL 3 [some O, none, some O, none, some X, none, some X, some X, some O] X O = (some 1, 1) := rfl

theorem mmv_4173 : minimaxL 3 [some O, none, none, some O, some X, none, some X, some X, some O] X O = (some 2, 1) := rfl

theorem mmv_4174 : minimaxL 3 [some O, none, none, none, some X, some O, some X, some X, some O] X O = (some 2, 1) := rfl

theorem mmv_4171 : minimaxL 4 [some O, none, none, none, some X, none, some X, some X, some O] O X = (some 1, 1) := by
  rw [minimaxL_succ 3 [some O, none, none, none, some X, none, some X, some X, some O] O X [1, 2, 3, 5] rfl rfl (List.cons_ne_nil _ _)]
  show pickBest [(1, (minimaxL 3 [some O, some O, none, none, some X, none, some X, some X, some O] X O).2), (2, (minimaxL 3 [some O, none, some O, none, some X, none, some X, some X, some O] X O).2), (3, (minimaxL 3 [some O, none, none, some O, some X, none, some X, some X, some O] X O).2), (5, (minimaxL 3 [some O, none, none, none, some X, some O, some X, some X, some O] X O).2)] O = (some 1, 1)
  rw [mmv_3774, mmv_4172, mmv_4173, mmv_4174]
  rfl

theorem mmv_4170 : minimaxL 5 [some O, none, none, none, none, none, some X, some X, some O] X O = (some 4, 1) := by
  rw [minimaxL_succ 4 [some O, none, none, none, none, none, some X, some X, some O] X O [1, 2, 3, 4, 5] rfl rfl (List.cons_ne_nil _ _)]
  show pickBest [(1, (minimaxL 4 [some O, some X, none, none, none, none, some X, some X, some O] O X).2), (2, (minimaxL 4 [some O, none, some X, none, none, none, some X, some X, some O] O X).2), (3, (minimaxL 4 [some O, none, none, some X, none, none, some X, some X, some O] O X).2), (4, (minimaxL 4 [some O, none, none, none, some X, none, some X, some X, some O] O X).2), (5, (minimaxL 4 [some O, none, none, none, none, some X, some X, some X, some O] O X).2)] X = (some 4, 1)
  rw [mmv_1693, mmv_2627, mmv_3233, mmv_4171, mmv_3955]
  rfl

theorem mmv_4164 : minimaxL 6 [some O, none, none, none, none, none, some X, some X, none] O X = (some 1, 1) := by
  rw [minimaxL_succ 5 [some O, none, none, none, none, none, some X, some X, none] O X [1, 2, 3, 4, 5, 8] rfl rfl (List.cons_ne_nil _ _)]
  show pickBest [(1, (minimaxL 5 [some O, some O, none, none, none, none, some X, some X, none] X O).2), (2, (minimaxL 5 [some O, none, some O, none, none, none, some X, some X, none] X O).2), (3, (minimaxL 5 [some O, none, none, some O, none, none, some X, some X, none] X O).2), (4, (minimaxL 5 [some O, none, none, none, some O, none, some X, some X, none] X O).2), (5, (minimaxL 5 [some O, none, none, none, none, some O, some X, some X, none] X O).2), (8, (minimaxL 5 [some O, none, none, none, none, none, some X, some X, some O] X O).2)] O = (some 1, 1)
  rw [mmv_4165, mmv_4166, mmv_4167, mmv_4168, mmv_4169, mmv_4170]
  rfl

theorem mmv_4176 : minimaxL 5 [some O, some O, none, none, none, none, some X, none, some X] X O = (some 7, 1) := rfl

theorem mmv_4177 : minimaxL 5 [some O, none, some O, none, none, none, some X, none, some X] X O = (some 7, 1) := rfl

theorem mmv_4178 : minimaxL 5 [some O, none, none, some O, none, none, some X, none, some X] X O = (some 7, 1) := rfl

theorem mmv_4179 : minimaxL 5 [some O, none, none, none, some O, none, some X, none, some X] X O = (some 7, 1) := rfl

theorem mmv_4180 : minimaxL 5 [some O, none, none, none, none, some O, some X, none, some X] X O = (some 7, 1) := rfl

theorem mmv_4183 : minimaxL 3 [some O, some O, some X, none, none, none, some X, some O, some X] X O = (some 4, 1) := rfl

theorem mmv_4184 : minimaxL 3 [some O, none, some X, some O, none, none, some X, some O, some X] X O = (some 4, 1) := rfl

theorem mmv_4182 : minimaxL 4 [some O, none, some X, none, none, none, some X, some O, some X] O X = (some 1, 1) := by
  rw [minimaxL_succ 3 [some O, none, some X, none, none, none, some X, some O, some X] O X [1, 3, 4, 5] rfl rfl (List.cons_ne_nil _ _)]
  show pickBest [(1, (minimaxL 3 [some O, some O, some X, none, none, none, some X, some O, some X] X O).2), (3, (minimaxL 3 [some O, none, some X, some O, none, none, some X, some O, some X] X O).2), (4, (minimaxL 3 [some O, none, some X, none, some O, none, some X, some O, some X] X O).2), (5, (minimaxL 3 [some O, none, some X, none, none, some O, some X, some O, some X] X O).2)] O = (some 1, 1)
  rw [mmv_4183, mmv_4184, mmv_2562, mmv_2641]
  rfl

theorem mmv_4181 : minimaxL 5 [some O, none, none, none, none, none, some X, some O, some X] X O = (some 2, 1) := by
  rw [minimaxL_succ 4 [some O, none, none, none, none, none, some X, some O, some X] X O [1, 2, 3, 4, 5] rfl rfl (List.cons_ne_nil _ _)]
  show pickBest [(1, (minimaxL 4 [some O, some X, none, none, none, none, some X, some O, some X] O X).2), (2, (minimaxL 4 [some O, none, some X, none, none, none, some X, some O, some X] O X).2), (3, (minimaxL 4 [some O, none, none, some X, none, none, some X, some O, some X] O X).2), (4, (minimaxL 4 [some O, none, none, none, some X, none, some X, some O, some X] O X).2), (5, (minimaxL 4 [some O, none, none, none, none, some X, some X, some O, some X] O X).2)] X = (some 2, 1)
  rw [mmv_1690, mmv_4182, mmv_3220, mmv_3686, mmv_3949]
  rfl

theorem mmv_4175 : minimaxL 6 [some O, none, none, none, none, none, some X, none, some X] O X = (some 1, 1) := by
  rw [minimaxL_succ 5 [some O, none, none, none, none, none, some X, none, some X] O X [1, 2, 3, 4, 5, 7] rfl rfl (List.cons_ne_nil _ _)]
  show pickBest [(1, (minimaxL 5 [some O, some O, none, none, none, none, some X, none, some X] X O).2), (2, (minimaxL 5 [some O, none, some O, none, none, none, some X, none, some X] X O).2), (3, (minimaxL 5 [some O, none, none, some O, none, none, some X, none, some X] X O).2), (4, (minimaxL 5 [some O, none, none, none, some O, none, some X, none, some X] X O).2), (5, (minimaxL 5 [some O, none, none, none, none, some O, some X, none, some X] X O).2), (7, (minimaxL 5 [some O, none, none, none, none, none, some X, some O, some X] X O).2)] O = (some 1, 1)
  rw [mmv_4176, mmv_4177, mmv_4178, mmv_4179, mmv_4180, mmv_4181]
  rfl

theorem mmv_4163 : minimaxL 7 [some O, none, none, none, none, none, some X, none, none] X O = (some 8, 1) := by
  rw [minimaxL_succ 6 [some O, none, none, none, none, none, some X, none, none] X O [1, 2, 3, 4, 5, 7, 8] rfl rfl (List.cons_ne_nil _ _)]
  show pickBest [(1, (minimaxL 6 [some O, some X, none, none, none, none, some X, none, none] O X).2), (2, (minimaxL 6 [some O, none, some X, none, none, none, some X, none, none] O X).2), (3, (minimaxL 6 [some O, none, none, some X, none, none, some X, none, none] O X).2), (4, (minimaxL 6 [some O, none, none, none, some X, none, some X, none, none] O X).2), (5, (minimaxL 6 [some O, none, none, none, none, some X, some X, none, none] O X).2), (7, (minimaxL 6 [some O, none, none, none, none, none, some X, some X, none] O X).2), (8, (minimaxL 6 [some O, none, none, none, none, none, some X, none, some X] O X).2)] X = (some 8, 1)
  rw [mmv_1647, mmv_2552, mmv_3180, mmv_3627, mmv_3911, mmv_4164, mmv_4175]
  rfl

theorem mmv_4187 : minimaxL 5 [none, some O, some O, none, none, none, some X, some X, none] X O = (some 8, 1) := rfl

theorem mmv_4188 : minimaxL 5 [none, some O, none, some O, none, none, some X, some X, none] X O = (some 8, 1) := rfl

theorem mmv_4189 : minimaxL 5 [none, some O, none, none, some O, none, some X, some X, none] X O = (some 8, 1) := rfl

theorem mmv_4190 : minimaxL 5 [none, some O, none, none, none, some O, some X, some X, none] X O = (some 8, 1) := rfl

theorem mmv_4191 : minimaxL 5 [none, some O, none, none, none, none, some X, some X, some O] X O = (some 2, 0) := by
  rw [minimaxL_succ 4 [none, some O, none, none, none, none, some X, some X, some O] X O [0, 2, 3, 4, 5] rfl rfl (List.cons_ne_nil _ _)]
  show pickBest [(0, (minimaxL 4 [some X, some O, none, none, none, none, some X, some X, some O] O X).2), (2, (minimaxL 4 [none, some O, some X, none, none, none, some X, some X, some O] O X).2), (3, (minimaxL 4 [none, some O, none, some X, none, none, some X, some X, some O] O X).2), (4, (minimaxL 4 [none, some O, none, none, some X, none, some X, some X, some O] O X).2), (5, (minimaxL 4 [none, some O, none, none, none, some X, some X, some X, some O] O X).2)] X = (some 2, 0)
  rw [mmv_0445, mmv_2816, mmv_3395, mmv_3773, mmv_4020]
  rfl

theorem mmv_4186 : minimaxL 6 [none, some O, none, none, none, none, some X, some X, none] O X = (some 8, 0) := by
  rw [minimaxL_succ 5 [none, some O, none, none, none, none, some X, some X, none] O X [0, 2, 3, 4, 5, 8] rfl rfl (List.cons_ne_nil _ _)]
  show pickBest [(0, (minimaxL 5 [some O, some O, none, none, none, none, some X, some X, none] X O).2), (2, (minimaxL 5 [none, some O, some O, none, none, none, some X, some X, none] X O).2), (3, (minimaxL 5 [none, some O, none, some O, none, none, some X, some X, none] X O).2), (4, (minimaxL 5 [none, some O, none, none, some O, none, some X, some X, none] X O).2), (5, (minimaxL 5 [none, some O, none, none, none, some O, some X, some X, none] X O).2), (8, (minimaxL 5 [none, some O, none, none, none, none, some X, some X, some O] X O).2)] O = (some 8, 0)
  rw [mmv_4165, mmv_4187, mmv_4188, mmv_4189, mmv_4190, mmv_4191]
  rfl

theorem mmv_4193 : minimaxL 5 [none, some O, some O, none, none, none, some X, none, some X] X O = (some 7, 1) := rfl

theorem mmv_4194 : minimaxL 5 [none, some O, none, some O, none, none, some X, none, some X] X O = (some 7, 1) := rfl

theorem mmv_4195 : minimaxL 5 [none, some O, none, none, some O, none, some X, none, some X] X O = (some 7, 1) := rfl

theorem mmv_4196 : minimaxL 5 [none, some O, none, none, none, some O, some X, none, some X] X O = (some 7, 1) := rfl

theorem mmv_4198 : minimaxL 4 [some X, some O, none, none, none, none, some X, some O, some X] O X = (some 4, -1) := rfl

theorem mmv_4199 : minimaxL 4 [none, some O, some X, none, none, none, some X, some O, some X] O X = (some 4, -1) := rfl

theorem mmv_4201 : minimaxL 3 [none, some O, none, some O, some X, none, some X, some O, some X] X O = (some 2, 1) := rfl

theorem mmv_4202 : minimaxL 3 [none, some O, none, none, some X, some O, some X, some O, some X] X O = (some 2, 1) := rfl

theorem mmv_4200 : minimaxL 4 [none, some O, none, none, some X, none, some X, some O, some X] O X = (some 0, 1) := by
  rw [minimaxL_succ 3 [none, some O, none, none, some X, none, some X, some O, some X] O X [0, 2, 3, 5] rfl rfl (List.cons_ne_nil _ _)]
  show pickBest [(0, (minimaxL 3 [some O, some O, none, none, some X, none, some X, some O, some X] X O).2), (2, (minimaxL 3 [none, some O, some O, none, some X, none, some X, some O, some X] X O).2), (3, (minimaxL 3 [none, some O, none, some O, some X, none, some X, some O, some X] X O).2), (5, (minimaxL 3 [none, some O, none, none, some X, some O, some X, some O, some X] X O).2)] O = (some 0, 1)
  rw [mmv_3687, mmv_3834, mmv_4201, mmv_4202]
  rfl

theorem mmv_4197 : minimaxL 5 [none, some O, none, none, none, none, some X, some O, some X] X O = (some 4, 1) := by
  rw [minimaxL_succ 4 [none, some O, none, none, none, none, some X, some O, some X] X O [0, 2, 3, 4, 5] rfl rfl (List.cons_ne_nil _ _)]
  show pickBest [(0, (minimaxL 4 [some X, some O, none, none, none, none, some X, some O, some X] O X).2), (2, (minimaxL 4 [none, some O, some X, none, none, none, some X, some O, some X] O X).2), (3, (minimaxL 4 [none, some O, none, some X, none, none, some X, some O, some X] O X).2), (4, (minimaxL 4 [none, some O, none, none, some X, none, some X, some O, some X] O X).2), (5, (minimaxL 4 [none, some O, none, none, none, some X, some X, some O, some X] O X).2)] X = (some 4, 1)
  rw [mmv_4198, mmv_4199, mmv_3431, mmv_4200, mmv_4012]
  rfl

theorem mmv_4192 : minimaxL 6 [none, some O, none, none, none, none, some X, none, some X] O X = (some 0, 1) := by
  rw [minimaxL_succ 5 [none, some O, none, none, none, none, some X, none, some X] O X [0, 2, 3, 4, 5, 7] rfl rfl (List.cons_ne_nil _ _)]
  show pickBest [(0, (minimaxL 5 [some O, some O, none, none, none, none, some X, none, some X] X O).2), (2, (minimaxL 5 [none, some O, some O, none, none, none, some X, none, some X] X O).2), (3, (minimaxL 5 [none, some O, none, some O, none, none, some X, none, some X] X O).2), (4, (minimaxL 5 [none, some O, none, none, some O, none, some X, none, some X] X O).2), (5, (minimaxL 5 [none, some O, none, none, none, some O, some X, none, some X] X O).2), (7, (minimaxL 5 [none, some O, none, none, none, none, some X, some O, some X] X O).2)] O = (some 0, 1)
  rw [mmv_4176, mmv_4193, mmv_4194, mmv_4195, mmv_4196, mmv_4197]
  rfl

theorem mmv_4185 : minimaxL 7 [none, some O, none, none, none, none, some X, none, none] X O = (some 8, 1) := by
  rw [minimaxL_succ 6 [none, some O, none, none, none, none, some X, none, none] X O [0, 2, 3, 4, 5, 7, 8] rfl rfl (List.cons_ne_nil _ _)]
  show pickBest [(0, (minimaxL 6 [some X, some O, none, none, none, none, some X, none, none] O X).2), (2, (minimaxL 6 [none, some O, some X, none, none, none, some X, none, none] O X).2), (3, (minimaxL 6 [none, some O, none, some X, none, none, some X, none, none] O X).2), (4, (minimaxL 6 [none, some O, none, none, some X, none, some X, none, none] O X).2), (5, (minimaxL 6 [none, some O, none, none, none, some X, some X, none, none] O X).2), (7, (minimaxL 6 [none, some O, none, none, none, none, some X, some X, none] O X).2), (8, (minimaxL 6 [none, some O, none, none, none, none, some X, none, some X] O X).2)] X = (some 8, 1)
  rw [mmv_0373, mmv_2771, mmv_3349, mmv_3724, mmv_3985, mmv_4186, mmv_4192]
  rfl

theorem mmv_4205 : minimaxL 5 [none, none, some O, some O, none, none, some X, some X, none] X O = (some 8, 1) := rfl

theorem mmv_4206 : minimaxL 5 [none, none, some O, none, some O, none, some X, some X, none] X O = (some 8, 1) := rfl

theorem mmv_4207 : minimaxL 5 [none, none, some O, none, none, some O, some X, some X, none] X O = (some 8, 1) := rfl

theorem mmv_4208 : minimaxL 5 [none, none, some O, none, none, none, some X, some X, some O] X O = (some 5, -1) := by
  rw [minimaxL_succ 4 [none, none, some O, none, none, none, some X, some X, some O] X O [0, 1, 3, 4, 5] rfl rfl (List.cons_ne_nil _ _)]
  show pickBest [(0, (minimaxL 4 [some X, none, some O, none, none, none, some X, some X, some O] O X).2), (1, (minimaxL 4 [none, some X, some O, none, none, none, some X, some X, some O] O X).2), (3, (minimaxL 4 [none, none, some O, some X, none, none, some X, some X, some O] O X).2), (4, (minimaxL 4 [none, none, some O, none, some X, none, some X, some X, some O] O X).2), (5, (minimaxL 4 [none, none, some O, none, none, some X, some X, some X, some O] O X).2)] X = (some 5, -1)
  rw [mmv_0745, mmv_1914, mmv_3488, mmv_3840, mmv_4079]
  rfl

theorem mmv_4204 : minimaxL 6 [none, none, some O, none, none, none, some X, some X, none] O X = (some 8, -1) := by
  rw [minimaxL_succ 5 [none, none, some O, none, none, none, some X, some X, none] O X [0, 1, 3, 4, 5, 8] rfl rfl (List.cons_ne_nil _ _)]
  show pickBest [(0, (minimaxL 5 [some O, none, some O, none, none, none, some X, some X, none] X O).2), (1, (minimaxL 5 [none, some O, some O, none, none, none, some X, some X, none] X O).2), (3, (minimaxL 5 [none, none, some O, some O, none, none, some X, some X, none] X O).2), (4, (minimaxL 5 [none, none, some O, none, some O, none, some X, some X, none] X O).2), (5, (minimaxL 5 [none, none, some O, none, none, some O, some X, some X, none] X O).2), (8, (minimaxL 5 [none, none, some O, none, none, none, some X, some X, some O] X O).2)] O = (some 8, -1)
  rw [mmv_4166, mmv_4187, mmv_4205, mmv_4206, mmv_4207, mmv_4208]
  rfl

theorem mmv_4210 : minimaxL 5 [none, none, some O, some O, none, none, some X, none, some X] X O = (some 7, 1) := rfl

theorem mmv_4211 : minimaxL 5 [none, none, some O, none, some O, none, some X, none, some X] X O = (some 7, 1) := rfl

theorem mmv_4212 : minimaxL 5 [none, none, some O, none, none, some O, some X, none, some X] X O = (some 7, 1) := rfl

theorem mmv_4215 : minimaxL 3 [some X, some O, some O, none, none, none, some X, some O, some X] X O = (some 3, 1) := rfl

theorem mmv_4216 : minimaxL 3 [some X, none, some O, none, none, some O, some X, some O, some X] X O = (some 3, 1) := rfl

theorem mmv_4214 : minimaxL 4 [some X, none, some O, none, none, none, some X, some O, some X] O X = (some 1, 1) := by
  rw [minimaxL_succ 3 [some X, none, some O, none, none, none, some X, some O, some X] O X [1, 3, 4, 5] rfl rfl (List.cons_ne_nil _ _)]
  show pickBest [(1, (minimaxL 3 [some X, some O, some O, none, none, none, some X, some O, some X] X O).2), (3, (minimaxL 3 [some X, none, some O, some O, none, none, some X, some O, some X] X O).2), (4, (minimaxL 3 [some X, none, some O, none, some O, none, some X, some O, some X] X O).2), (5, (minimaxL 3 [some X, none, some O, none, none, some O, some X, some O, some X] X O).2)] O = (some 1, 1)
  rw [mmv_4215, mmv_0710, mmv_0753, mmv_4216]
  rfl

theorem mmv_4213 : minimaxL 5 [none, none, some O, none, none, none, some X, some O, some X] X O = (some 0, 1) := by
  rw [minimaxL_succ 4 [none, none, some O, none, none, none, some X, some O, some X] X O [0, 1, 3, 4, 5] rfl rfl (List.cons_ne_nil _ _)]
  show pickBest [(0, (minimaxL 4 [some X, none, some O, none, none, none, some X, some O, some X] O X).2), (1, (minimaxL 4 [none, some X, some O, none, none, none, some X, some O, some X] O X).2), (3, (minimaxL 4 [none, none, some O, some X, none, none, some X, some O, some X] O X).2), (4, (minimaxL 4 [none, none, some O, none, some X, none, some X, some O, some X] O X).2), (5, (minimaxL 4 [none, none, some O, none, none, some X, some X, some O, some X] O X).2)] X = (some 0, 1)
  rw [mmv_4214, mmv_1911, mmv_3513, mmv_3833, mmv_4071]
  rfl

theorem mmv_4209 : minimaxL 6 [none, none, some O, none, none, none, some X, none, some X] O X = (some 0, 1) := by
  rw [minimaxL_succ 5 [none, none, some O, none, none, none, some X, none, some X] O X [0, 1, 3, 4, 5, 7] rfl rfl (List.cons_ne_nil _ _)]
  show pickBest [(0, (minimaxL 5 [some O, none, some O, none, none, none, some X, none, some X] X O).2), (1, (minimaxL 5 [none, some O, some O, none, none, none, some X, none, some X] X O).2), (3, (minimaxL 5 [none, none, some O, some O, none, none, some X, none, some X] X O).2), (4, (minimaxL 5 [none, none, some O, none, some O, none, some X, none, some X] X O).2), (5, (minimaxL 5 [none, none, some O, none, none, some O, some X, none, some X] X O).2), (7, (minimaxL 5 [none, none, some O, none, none, none, some X, some O, some X] X O).2)] O = (some 0, 1)
  rw [mmv_4177, mmv_4193, mmv_4210, mmv_4211, mmv_4212, mmv_4213]
  rfl

theorem mmv_4203 : minimaxL 7 [none, none, some O, none, none, none, some X, none, none] X O = (some 8, 1) := by
  rw [minimaxL_succ 6 [none, none, some O, none, none, none, some X, none, none] X O [0, 1, 3, 4, 5, 7, 8] rfl rfl (List.cons_ne_nil _ _)]
  show pickBest [(0, (minimaxL 6 [some X, none, some O, none, none, none, some X, none, none] O X).2), (1, (minimaxL 6 [none, some X, some O, none, none, none, some X, none, none] O X).2), (3, (minimaxL 6 [none, none, some O, some X, none, none, some X, none, none] O X).2), (4, (minimaxL 6 [none, none, some O, none, some X, none, some X, none, none] O X).2), (5, (minimaxL 6 [none, none, some O, none, none, some X, some X, none, none] O X).2), (7, (minimaxL 6 [none, none, some O, none, none, none, some X, some X, none] O X).2), (8, (minimaxL 6 [none, none, some O, none, none, none, some X, none, some X] O X).2)] X = (some 8, 1)
  rw [mmv_0696, mmv_1883, mmv_3457, mmv_3807, mmv_4052, mmv_4204, mmv_4209]
  rfl

theorem mmv_4219 : minimaxL 5 [none, none, none, some O, some O, none, some X, some X, none] X O = (some 8, 1) := rfl

theorem mmv_4220 : minimaxL 5 [none, none, none, some O, none, some O, some X, some X, none] X O = (some 8, 1) := rfl

theorem mmv_4223 : minimaxL 3 [none, none, none, some O, some X, some O, some X, some X, some O] X O = (some 2, 1) := rfl

theorem mmv_4222 : minimaxL 4 [none, none, none, some O, some X, none, some X, some X, some O] O X = (some 0, 1) := by
  rw [minimaxL_succ 3 [none, none, none, some O, some X, none, some X, some X, some O] O X [0, 1, 2, 5] rfl rfl (List.cons_ne_nil _ _)]
  show pickBest [(0, (minimaxL 3 [some O, none, none, some O, some X, none, some X, some X, some O] X O).2), (1, (minimaxL 3 [none, some O, none, some O, some X, none, some X, some X, some O] X O).2), (2, (minimaxL 3 [none, none, some O, some O, some X, none, some X, some X, some O] X O).2), (5, (minimaxL 3 [none, none, none, some O, some X, some O, some X, some X, some O] X O).2)] O = (some 0, 1)
  rw [mmv_4173, mmv_3746, mmv_3812, mmv_4223]
  rfl

theorem mmv_4221 : minimaxL 5 [none, none, none, some O, none, none, some X, some X, some O] X O = (some 4, 1) := by
  rw [minimaxL_succ 4 [none, none, none, some O, none, none, some X, some X, some O] X O [0, 1, 2, 4, 5] rfl rfl (List.cons_ne_nil _ _)]
  show pickBest [(0, (minimaxL 4 [some X, none, none, some O, none, none, some X, some X, some O] O X).2), (1, (minimaxL 4 [none, some X, none, some O, none, none, some X, some X, some O] O X).2), (2, (minimaxL 4 [none, none, some X, some O, none, none, some X, some X, some O] O X).2), (4, (minimaxL 4 [none, none, none, some O, some X, none, some X, some X, some O] O X).2), (5, (minimaxL 4 [none, none, none, some O, none, some X, some X, some X, some O] O X).2)] X = (some 4, 1)
  rw [mmv_0898, mmv_2056, mmv_2901, mmv_4222, mmv_4121]
  rfl

theorem mmv_4218 : minimaxL 6 [none, none, none, some O, none, none, some X, some X, none] O X = (some 0, 1) := by
  rw [minimaxL_succ 5 [none, none, none, some O, none, none, some X, some X, none] O X [0, 1, 2, 4, 5, 8] rfl rfl (List.cons_ne_nil _ _)]
  show pickBest [(0, (minimaxL 5 [some O, none, none, some O, none, none, some X, some X, none] X O).2), (1, (minimaxL 5 [none, some O, none, some O, none, none, some X, some X, none] X O).2), (2, (minimaxL 5 [none, none, some O, some O, none, none, some X, some X, none] X O).2), (4, (minimaxL 5 [none, none, none, some O, some O, none, some X, some X, none] X O).2), (5, (minimaxL 5 [none, none, none, some O, none, some O, some X, some X, none] X O).2), (8, (minimaxL 5 [none, none, none, some O, none, none, some X, some X, some O] X O).2)] O = (some 0, 1)
  rw [mmv_4167, mmv_4188, mmv_4205, mmv_4219, mmv_4220, mmv_4221]
  rfl

theorem mmv_4225 : minimaxL 5 [none, none, none, some O, some O, none, some X, none, some X] X O = (some 7, 1) := rfl

theorem mmv_4226 : minimaxL 5 [none, none, none, some O, none, some O, some X, none, some X] X O = (some 7, 1) := rfl

theorem mmv_4229 : minimaxL 3 [none, some O, some X, some O, none, none, some X, some O, some X] X O = (some 4, 1) := rfl

theorem mmv_4230 : minimaxL 3 [none, none, some X, some O, some O, none, some X, some O, some X] X O = (some 5, 1) := rfl

theorem mmv_4228 : minimaxL 4 [none, none, some X, some O, none, none, some X, some O, some X] O X = (some 0, 1) := by
  rw [minimaxL_succ 3 [none, none, some X, some O, none, none, some X, some O, some X] O X [0, 1, 4, 5] rfl rfl (List.cons_ne_nil _ _)]
  show pickBest [(0, (minimaxL 3 [some O, none, some X, some O, none, none, some X, some O, some X] X O).2), (1, (minimaxL 3 [none, some O, some X, some O, none, none, some X, some O, some X] X O).2), (4, (minimaxL 3 [none, none, some X, some O, some O, none, some X, some O, some X] X O).2), (5, (minimaxL 3 [none, none, some X, some O, none, some O, some X, some O, some X] X O).2)] O = (some 0, 1)
  rw [mmv_4184, mmv_4229, mmv_4230, mmv_3064]
  rfl

theorem mmv_4232 : minimaxL 3 [none, none, none, some O, some X, some O, some X, some O, some X] X O = (some 2, 1) := rfl

theorem mmv_4231 : minimaxL 4 [none, none, none, some O, some X, none, some X, some O, some X] O X = (some 0, 1) := by
  rw [minimaxL_succ 3 [none, none, none, some O, some X, none, some X, some O, some X] O X [0, 1, 2, 5] rfl rfl (List.cons_ne_nil _ _)]
  show pickBest [(0, (minimaxL 3 [some O, none, none, some O, some X, none, some X, some O, some X] X O).2), (1, (minimaxL 3 [none, some O, none, some O, some X, none, some X, some O, some X] X O).2), (2, (minimaxL 3 [none, none, some O, some O, some X, none, some X, some O, some X] X O).2), (5, (minimaxL 3 [none, none, none, some O, some X, some O, some X, some O, some X] X O).2)] O = (some 0, 1)
  rw [mmv_3663, mmv_4201, mmv_3816, mmv_4232]
  rfl

theorem mmv_4227 : minimaxL 5 [none, none, none, some O, none, none, some X, some O, some X] X O = (some 4, 1) := by
  rw [minimaxL_succ 4 [none, none, none, some O, none, none, some X, some O, some X] X O [0, 1, 2, 4, 5] rfl rfl (List.cons_ne_nil _ _)]
  show pickBest [(0, (minimaxL 4 [some X, none, none, some O, none, none, some X, some O, some X] O X).2), (1, (minimaxL 4 [none, some X, none, some O, none, none, some X, some O, some X] O X).2), (2, (minimaxL 4 [none, none, some X, some O, none, none, some X, some O, some X] O X).2), (4, (minimaxL 4 [none, none, none, some O, some X, none, some X, some O, some X] O X).2), (5, (minimaxL 4 [none, none, none, some O, none, some X, some X, some O, some X] O X).2)] X = (some 4, 1)
  rw [mmv_0886, mmv_2044, mmv_4228, mmv_4231, mmv_4119]
  rfl

theorem mmv_4224 : minimaxL 6 [none, none, none, some O, none, none, some X, none, some X] O X = (some 0, 1) := by
  rw [minimaxL_succ 5 [none, none, none, some O, none, none, some X, none, some X] O X [0, 1, 2, 4, 5, 7] rfl rfl (List.cons_ne_nil _ _)]
  show pickBest [(0, (minimaxL 5 [some O, none, none, some O, none, none, some X, none, some X] X O).2), (1, (minimaxL 5 [none, some O, none, some O, none, none, some X, none, some X] X O).2), (2, (minimaxL 5 [none, none, some O, some O, none, none, some X, none, some X] X O).2), (4, (minimaxL 5 [none, none, none, some O, some O, none, some X, none, some X] X O).2), (5, (minimaxL 5 [none, none, none, some O, none, some O, some X, none, some X] X O).2), (7, (minimaxL 5 [none, none, none, some O, none, none, some X, some O, some X] X O).2)] O = (some 0, 1)
  rw [mmv_4178, mmv_4194, mmv_4210, mmv_4225, mmv_4226, mmv_4227]
  rfl

theorem mmv_4217 : minimaxL 7 [none, none, none, some O, none, none, some X, none, none] X O = (some 8, 1) := by
  rw [minimaxL_succ 6 [none, none, none, some O, none, none, some X, none, none] X O [0, 1, 2, 4, 5, 7, 8] rfl rfl (List.cons_ne_nil _ _)]
  show pickBest [(0, (minimaxL 6 [some X, none, none, some O, none, none, some X, none, none] O X).2), (1, (minimaxL 6 [none, some X, none, some O, none, none, some X, none, none] O X).2), (2, (minimaxL 6 [none, none, some X, some O, none, none, some X, none, none] O X).2), (4, (minimaxL 6 [none, none, none, some O, some X, none, some X, none, none] O X).2), (5, (minimaxL 6 [none, none, none, some O, none, some X, some X, none, none] O X).2), (7, (minimaxL 6 [none, none, none, some O, none, none, some X, some X, none] O X).2), (8, (minimaxL 6 [none, none, none, some O, none, none, some X, none, some X] O X).2)] X = (some 8, 1)
  rw [mmv_0863, mmv_2028, mmv_2865, mmv_3869, mmv_4111, mmv_4218, mmv_4224]
  rfl

theorem mmv_4235 : minimaxL 5 [none, none, none, none, some O, some O, some X, some X, none] X O = (some 8, 1) := rfl

theorem mmv_4236 : minimaxL 5 [none, none, none, none, some O, none, some X, some X, some O] X O = (some 0, 0) := by
  rw [minimaxL_succ 4 [none, none, none, none, some O, none, some X, some X, some O] X O [0, 1, 2, 3, 5] rfl rfl (List.cons_ne_nil _ _)]
  show pickBest [(0, (minimaxL 4 [some X, none, none, none, some O, none, some X, some X, some O] O X).2), (1, (minimaxL 4 [none, some X, none, none, some O, none, some X, some X, some O] O X).2), (2, (minimaxL 4 [none, none, some X, none, some O, none, some X, some X, some O] O X).2), (3, (minimaxL 4 [none, none, none, some X, some O, none, some X, some X, some O] O X).2), (5, (minimaxL 4 [none, none, none, none, some O, some X, some X, some X, some O] O X).2)] X = (some 0, 0)
  rw [mmv_1041, mmv_2208, mmv_2974, mmv_3539, mmv_4138]
  rfl

theorem mmv_4234 : minimaxL 6 [none, none, none, none, some O, none, some X, some X, none] O X = (some 8, 0) := by
  rw [minimaxL_succ 5 [none, none, none, none, some O, none, some X, some X, none] O X [0, 1, 2, 3, 5, 8] rfl rfl (List.cons_ne_nil _ _)]
  show pickBest [(0, (minimaxL 5 [some O, none, none, none, some O, none, some X, some X, none] X O).2), (1, (minimaxL 5 [none, some O, none, none, some O, none, some X, some X, none] X O).2), (2, (minimaxL 5 [none, none, some O, none, some O, none, some X, some X, none] X O).2), (3, (minimaxL 5 [none, none, none, some O, some O, none, some X, some X, none] X O).2), (5, (minimaxL 5 [none, none, none, none, some O, some O, some X, some X, none] X O).2), (8, (minimaxL 5 [none, none, none, none, some O, none, some X, some X, some O] X O).2)] O = (some 8, 0)
  rw [mmv_4168, mmv_4189, mmv_4206, mmv_4219, mmv_4235, mmv_4236]
  rfl

theorem mmv_4238 : minimaxL 5 [none, none, none, none, some O, some O, some X, none, some X] X O = (some 7, 1) := rfl

theorem mmv_4239 : minimaxL 5 [none, none, none, none, some O, none, some X, some O, some X] X O = (some 1, 0) := by
  rw [minimaxL_succ 4 [none, none, none, none, some O, none, some X, some O, some X] X O [0, 1, 2, 3, 5] rfl rfl (List.cons_ne_nil _ _)]
  show pickBest [(0, (minimaxL 4 [some X, none, none, none, some O, none, some X, some O, some X] O X).2), (1, (minimaxL 4 [none, some X, none, none, some O, none, some X, some O, some X] O X).2), (2, (minimaxL 4 [none, none, some X, none, some O, none, some X, some O, some X] O X).2), (3, (minimaxL 4 [none, none, none, some X, some O, none, some X, some O, some X] O X).2), (5, (minimaxL 4 [none, none, none, none, some O, some X, some X, some O, some X] O X).2)] X = (some 1, 0)
  rw [mmv_1069, mmv_2200, mmv_2969, mmv_3546, mmv_4136]
  rfl

theorem mmv_4237 : minimaxL 6 [none, none, none, none, some O, none, some X, none, some X] O X = (some 7, 0) := by
  rw [minimaxL_succ 5 [none, none, none, none, some O, none, some X, none, some X] O X [0, 1, 2, 3, 5, 7] rfl rfl (List.cons_ne_nil _ _)]
  show pickBest [(0, (minimaxL 5 [some O, none, none, none, some O, none, some X, none, some X] X O).2), (1, (minimaxL 5 [none, some O, none, none, some O, none, some X, none, some X] X O).2), (2, (minimaxL 5 [none, none, some O, none, some O, none, some X, none, some X] X O).2), (3, (minimaxL 5 [none, none, none, some O, some O, none, some X, none, some X] X O).2), (5, (minimaxL 5 [none, none, none, none, some O, some O, some X, none, some X] X O).2), (7, (minimaxL 5 [none, none, none, none, some O, none, some X, some O, some X] X O).2)] O = (some 7, 0)
  rw [mmv_4179, mmv_4195, mmv_4211, mmv_4225, mmv_4238, mmv_4239]
  rfl

theorem mmv_4233 : minimaxL 7 [none, none, none, none, some O, none, some X, none, none] X O = (some 8, 0) := by
  rw [minimaxL_succ 6 [none, none, none, none, some O, none, some X, none, none] X O [0, 1, 2, 3, 5, 7, 8] rfl rfl (List.cons_ne_nil _ _)]
  show pickBest [(0, (minimaxL 6 [some X, none, none, none, some O, none, some X, none, none] O X).2), (1, (minimaxL 6 [none, some X, none, none, some O, none, some X, none, none] O X).2), (2, (minimaxL 6 [none, none, some X, none, some O, none, some X, none, none] O X).2), (3, (minimaxL 6 [none, none, none, some X, some O, none, some X, none, none] O X).2), (5, (minimaxL 6 [none, none, none, none, some O, some X, some X, none, none] O X).2), (7, (minimaxL 6 [none, none, none, none, some O, none, some X, some X, none] O X).2), (8, (minimaxL 6 [none, none, none, none, some O, none, some X, none, some X] O X).2)] X = (some 8, 0)
  rw [mmv_1003, mmv_2187, mmv_2961, mmv_3526, mmv_4134, mmv_4234, mmv_4237]
  rfl

theorem mmv_4243 : minimaxL 4 [none, none, none, none, some X, some O, some X, some X, some O] O X = (some 2, -1) := rfl

theorem mmv_4242 : minimaxL 5 [none, none, none, none, none, some O, some X, some X, some O] X O = (some 4, -1) := by
  rw [minimaxL_succ 4 [none, none, none, none, none, some O, some X, some X, some O] X O [0, 1, 2, 3, 4] rfl rfl (List.cons_ne_nil _ _)]
  show pickBest [(0, (minimaxL 4 [some X, none, none, none, none, some O, some X, some X, some O] O X).2), (1, (minimaxL 4 [none, some X, none, none, none, some O, some X, some X, some O] O X).2), (2, (minimaxL 4 [none, none, some X, none, none, some O, some X, some X, some O] O X).2), (3, (minimaxL 4 [none, none, none, some X, none, some O, some X, some X, some O] O X).2), (4, (minimaxL 4 [none, none, none, none, some X, some O, some X, some X, some O] O X).2)] X = (some 4, -1)
  rw [mmv_1142, mmv_2302, mmv_3049, mmv_3572, mmv_4243]
  rfl

theorem mmv_4241 : minimaxL 6 [none, none, none, none, none, some O, some X, some X, none] O X = (some 8, -1) := by
  rw [minimaxL_succ 5 [none, none, none, none, none, some O, some X, some X, none] O X [0, 1, 2, 3, 4, 8] rfl rfl (List.cons_ne_nil _ _)]
  show pickBest [(0, (minimaxL 5 [some O, none, none, none, none, some O, some X, some X, none] X O).2), (1, (minimaxL 5 [none, some O, none, none, none, some O, some X, some X, none] X O).2), (2, (minimaxL 5 [none, none, some O, none, none, some O, some X, some X, none] X O).2), (3, (minimaxL 5 [none, none, none, some O, none, some O, some X, some X, none] X O).2), (4, (minimaxL 5 [none, none, none, none, some O, some O, some X, some X, none] X O).2), (8, (minimaxL 5 [none, none, none, none, none, some O, some X, some X, some O] X O).2)] O = (some 8, -1)
  rw [mmv_4169, mmv_4190, mmv_4207, mmv_4220, mmv_4235, mmv_4242]
  rfl

theorem mmv_4247 : minimaxL 3 [some X, some O, none, none, none, some O, some X, some O, some X] X O = (some 3, 1) := rfl

theorem mmv_4248 : minimaxL 3 [some X, none, none, none, some O, some O, some X, some O, some X] X O = (some 3, 1) := rfl

theorem mmv_4246 : minimaxL 4 [some X, none, none, none, none, some O, some X, some O, some X] O X = (some 1, 1) := by
  rw [minimaxL_succ 3 [some X, none, none, none, none, some O, some X, some O, some X] O X [1, 2, 3, 4] rfl rfl (List.cons_ne_nil _ _)]
  show pickBest [(1, (minimaxL 3 [some X, some O, none, none, none, some O, some X, some O, some X] X O).2), (2, (minimaxL 3 [some X, none, some O, none, none, some O, some X, some O, some X] X O).2), (3, (minimaxL 3 [some X, none, none, some O, none, some O, some X, some O, some X] X O).2), (4, (minimaxL 3 [some X, none, none, none, some O, some O, some X, some O, some X] X O).2)] O = (some 1, 1)
  rw [mmv_4247, mmv_4216, mmv_0890, mmv_4248]
  rfl

theorem mmv_4249 : minimaxL 4 [none, none, none, none, some X, some O, some X, some O, some X] O X = (some 0, 1) := by
  rw [minimaxL_succ 3 [none, none, none, none, some X, some O, some X, some O, some X] O X [0, 1, 2, 3] rfl rfl (List.cons_ne_nil _ _)]
  show pickBest [(0, (minimaxL 3 [some O, none, none, none, some X, some O, some X, some O, some X] X O).2), (1, (minimaxL 3 [none, some O, none, none, some X, some O, some X, some O, some X] X O).2), (2, (minimaxL 3 [none, none, some O, none, some X, some O, some X, some O, some X] X O).2), (3, (minimaxL 3 [none, none, none, some O, some X, some O, some X, some O, some X] X O).2)] O = (some 0, 1)
  rw [mmv_3669, mmv_4202, mmv_3822, mmv_4232]
  rfl

theorem mmv_4245 : minimaxL 5 [none, none, none, none, none, some O, some X, some O, some X] X O = (some 4, 1) := by
  rw [minimaxL_succ 4 [none, none, none, none, none, some O, some X, some O, some X] X O [0, 1, 2, 3, 4] rfl rfl (List.cons_ne_nil _ _)]
  show pickBest [(0, (minimaxL 4 [some X, none, none, none, none, some O, some X, some O, some X] O X).2), (1, (minimaxL 4 [none, some X, none, none, none, some O, some X, some O, some X] O X).2), (2, (minimaxL 4 [none, none, some X, none, none, some O, some X, some O, some X] O X).2), (3, (minimaxL 4 [none, none, none, some X, none, some O, some X, some O, some X] O X).2), (4, (minimaxL 4 [none, none, none, none, some X, some O, some X, some O, some X] O X).2)] X = (some 4, 1)
  rw [mmv_4246, mmv_2296, mmv_3063, mmv_3577, mmv_4249]
  rfl

theorem mmv_4244 : minimaxL 6 [none, none, none, none, none, some O, some X, none, some X] O X = (some 0, 1) := by
  rw [minimaxL_succ 5 [none, none, none, none, none, some O, some X, none, some X] O X [0, 1, 2, 3, 4, 7] rfl rfl (List.cons_ne_nil _ _)]
  show pickBest [(0, (minimaxL 5 [some O, none, none, none, none, some O, some X, none, some X] X O).2), (1, (minimaxL 5 [none, some O, none, none, none, some O, some X, none, some X] X O).2), (2, (minimaxL 5 [none, none, some O, none, none, some O, some X, none, some X] X O).2), (3, (minimaxL 5 [none, none, none, some O, none, some O, some X, none, some X] X O).2), (4, (minimaxL 5 [none, none, none, none, some O, some O, some X, none, some X] X O).2), (7, (minimaxL 5 [none, none, none, none, none, some O, some X, some O, some X] X O).2)] O = (some 0, 1)
  rw [mmv_4180, mmv_4196, mmv_4212, mmv_4226, mmv_4238, mmv_4245]
  rfl

theorem mmv_4240 : minimaxL 7 [none, none, none, none, none, some O, some X, none, none] X O = (some 8, 1) := by
  rw [minimaxL_succ 6 [none, none, none, none, none, some O, some X, none, none] X O [0, 1, 2, 3, 4, 7, 8] rfl rfl (List.cons_ne_nil _ _)]
  show pickBest [(0, (minimaxL 6 [some X, none, none, none, none, some O, some X, none, none] O X).2), (1, (minimaxL 6 [none, some X, none, none, none, some O, some X, none, none] O X).2), (2, (minimaxL 6 [none, none, some X, none, none, some O, some X, none, none] O X).2), (3, (minimaxL 6 [none, none, none, some X, none, some O, some X, none, none] O X).2), (4, (minimaxL 6 [none, none, none, none, some X, some O, some X, none, none] O X).2), (7, (minimaxL 6 [none, none, none, none, none, some O, some X, some X, none] O X).2), (8, (minimaxL 6 [none, none, none, none, none, some O, some X, none, some X] O X).2)] X = (some 8, 1)
  rw [mmv_1121, mmv_2290, mmv_3032, mmv_3565, mmv_3882, mmv_4241, mmv_4244]
  rfl

theorem mmv_4251 : minimaxL 6 [none, none, none, none, none, none, some X, some O, some X] O X = (some 4, 0) := by
  rw [minimaxL_succ 5 [none, none, none, none, none, none, some X, some O, some X] O X [0, 1, 2, 3, 4, 5] rfl rfl (List.cons_ne_nil _ _)]
  show pickBest [(0, (minimaxL 5 [some O, none, none, none, none, none, some X, some O, some X] X O).2), (1, (minimaxL 5 [none, some O, none, none, none, none, some X, some O, some X] X O).2), (2, (minimaxL 5 [none, none, some O, none, none, none, some X, some O, some X] X O).2), (3, (minimaxL 5 [none, none, none, some O, none, none, some X, some O, some X] X O).2), (4, (minimaxL 5 [none, none, none, none, some O, none, some X, some O, some X] X O).2), (5, (minimaxL 5 [none, none, none, none, none, some O, some X, some O, some X] X O).2)] O = (some 4, 0)
  rw [mmv_4181, mmv_4197, mmv_4213, mmv_4227, mmv_4239, mmv_4245]
  rfl

theorem mmv_4250 : minimaxL 7 [none, none, none, none, none, none, some X, some O, none] X O = (some 4, 1) := by
  rw [minimaxL_succ 6 [none, none, none, none, none, none, some X, some O, none] X O [0, 1, 2, 3, 4, 5, 8] rfl rfl (List.cons_ne_nil _ _)]
  show pickBest [(0, (minimaxL 6 [some X, none, none, none, none, none, some X, some O, none] O X).2), (1, (minimaxL 6 [none, some X, none, none, none, none, some X, some O, none] O X).2), (2, (minimaxL 6 [none, none, some X, none, none, none, some X, some O, none] O X).2), (3, (minimaxL 6 [none, none, none, some X, none, none, some X, some O, none] O X).2), (4, (minimaxL 6 [none, none, none, none, some X, none, some X, some O, none] O X).2), (5, (minimaxL 6 [none, none, none, none, none, some X, some X, some O, none] O X).2), (8, (minimaxL 6 [none, none, none, none, none, none, some X, some O, some X] O X).2)] X = (some 4, 1)
  rw [mmv_1221, mmv_2384, mmv_3119, mmv_3600, mmv_3902, mmv_4153, mmv_4251]
  rfl

theorem mmv_4253 : minimaxL 6 [none, none, none, none, none, none, some X, some X, some O] O X = (some 2, -1) := by
  rw [minimaxL_succ 5 [none, none, none, none, none, none, some X, some X, some O] O X [0, 1, 2, 3, 4, 5] rfl rfl (List.cons_ne_nil _ _)]
  show pickBest [(0, (minimaxL 5 [some O, none, none, none, none, none, some X, some X, some O] X O).2), (1, (minimaxL 5 [none, some O, none, none, none, none, some X, some X, some O] X O).2), (2, (minimaxL 5 [none, none, some O, none, none, none, some X, some X, some O] X O).2), (3, (minimaxL 5 [none, none, none, some O, none, none, some X, some X, some O] X O).2), (4, (minimaxL 5 [none, none, none, none, some O, none, some X, some X, some O] X O).2), (5, (minimaxL 5 [none, none, none, none, none, some O, some X, some X, some O] X O).2)] O = (some 2, -1)
  rw [mmv_4170, mmv_4191, mmv_4208, mmv_4221, mmv_4236, mmv_4242]
  rfl

theorem mmv_4252 : minimaxL 7 [none, none, none, none, none, none, some X, none, some O] X O = (some 3, 1) := by
  rw [minimaxL_succ 6 [none, none, none, none, none, none, some X, none, some O] X O [0, 1, 2, 3, 4, 5, 7] rfl rfl (List.cons_ne_nil _ _)]
  show pickBest [(0, (minimaxL 6 [some X, none, none, none, none, none, some X, none, some O] O X).2), (1, (minimaxL 6 [none, some X, none, none, none, none, some X, none, some O] O X).2), (2, (minimaxL 6 [none, none, some X, none, none, none, some X, none, some O] O X).2), (3, (minimaxL 6 [none, none, none, some X, none, none, some X, none, some O] O X).2), (4, (minimaxL 6 [none, none, none, none, some X, none, some X, none, some O] O X).2), (5, (minimaxL 6 [none, none, none, none, none, some X, some X, none, some O] O X).2), (7, (minimaxL 6 [none, none, none, none, none, none, some X, some X, some O] O X).2)] X = (some 3, 1)
  rw [mmv_1230, mmv_2394, mmv_3126, mmv_3606, mmv_3907, mmv_4160, mmv_4253]
  rfl

theorem mmv_4162 : minimaxL 8 [none, none, none, none, none, none, some X, none, none] O X = (some 4, 0) := by
  rw [minimaxL_succ 7 [none, none, none, none, none, none, some X, none, none] O X [0, 1, 2, 3, 4, 5, 7, 8] rfl rfl (List.cons_ne_nil _ _)]
  show pickBest [(0, (minimaxL 7 [some O, none, none, none, none, none, some X, none, none] X O).2), (1, (minimaxL 7 [none, some O, none, none, none, none, some X, none, none] X O).2), (2, (minimaxL 7 [none, none, some O, none, none, none, some X, none, none] X O).2), (3, (minimaxL 7 [none, none, none, some O, none, none, some X, none, none] X O).2), (4, (minimaxL 7 [none, none, none, none, some O, none, some X, none, none] X O).2), (5, (minimaxL 7 [none, none, none, none, none, some O, some X, none, none] X O).2), (7, (minimaxL 7 [none, none, none, none, none, none, some X, some O, none] X O).2), (8, (minimaxL 7 [none, none, none, none, none, none, some X, none, some O] X O).2)] O = (some 4, 0)
  rw [mmv_4163, mmv_4185, mmv_4203, mmv_4217, mmv_4233, mmv_4240, mmv_4250, mmv_4252]
  rfl

theorem mmv_4257 : minimaxL 5 [some O, some O, none, none, none, none, none, some X, some X] X O = (some 6, 1) := rfl

theorem mmv_4258 : minimaxL 5 [some O, none, some O, none, none, none, none, some X, some X] X O = (some 6, 1) := rfl

theorem mmv_4259 : minimaxL 5 [some O, none, none, some O, none, none, none, some X, some X] X O = (some 6, 1) := rfl

theorem mmv_4260 : minimaxL 5 [some O, none, none, none, some O, none, none, some X, some X] X O = (some 6, 1) := rfl

theorem mmv_4261 : minimaxL 5 [some O, none, none, none, none, some O, none, some X, some X] X O = (some 6, 1) := rfl

theorem mmv_4262 : minimaxL 5 [some O, none, none, none, none, none, some O, some X, some X] X O = (some 5, -1) := by
  rw [minimaxL_succ 4 [some O, none, none, none, none, none, some O, some X, some X] X O [1, 2, 3, 4, 5] rfl rfl (List.cons_ne_nil _ _)]
  show pickBest [(1, (minimaxL 4 [some O, some X, none, none, none, none, some O, some X, some X] O X).2), (2, (minimaxL 4 [some O, none, some X, none, none, none, some O, some X, some X] O X).2), (3, (minimaxL 4 [some O, none, none, some X, none, none, some O, some X, some X] O X).2), (4, (minimaxL 4 [some O, none, none, none, some X, none, some O, some X, some X] O X).2), (5, (minimaxL 4 [some O, none, none, none, none, some X, some O, some X, some X] O X).2)] X = (some 5, -1)
  rw [mmv_1731, mmv_2622, mmv_3265, mmv_3677, mmv_3972]
  rfl

theorem mmv_4256 : minimaxL 6 [some O, none, none, none, none, none, none, some X, some X] O X = (some 6, -1) := by
  rw [minimaxL_succ 5 [some O, none, none, none, none, none, none, some X, some X] O X [1, 2, 3, 4, 5, 6] rfl rfl (List.cons_ne_nil _ _)]
  show pickBest [(1, (minimaxL 5 [some O, some O, none, none, none, none, none, some X, some X] X O).2), (2, (minimaxL 5 [some O, none, some O, none, none, none, none, some X, some X] X O).2), (3, (minimaxL 5 [some O, none, none, some O, none, none, none, some X, some X] X O).2), (4, (minimaxL 5 [some O, none, none, none, some O, none, none, some X, some X] X O).2), (5, (minimaxL 5 [some O, none, none, none, none, some O, none, some X, some X] X O).2), (6, (minimaxL 5 [some O, none, none, none, none, none, some O, some X, some X] X O).2)] O = (some 6, -1)
  rw [mmv_4257, mmv_4258, mmv_4259, mmv_4260, mmv_4261, mmv_4262]
  rfl

theorem mmv_4255 : minimaxL 7 [some O, none, none, none, none, none, none, some X, none] X O = (some 6, 1) := by
  rw [minimaxL_succ 6 [some O, none, none, none, none, none, none, some X, none] X O [1, 2, 3, 4, 5, 6, 8] rfl rfl (List.cons_ne_nil _ _)]
  show pickBest [(1, (minimaxL 6 [some O, some X, none, none, none, none, none, some X, none] O X).2), (2, (minimaxL 6 [some O, none, some X, none, none, none, none, some X, none] O X).2), (3, (minimaxL 6 [some O, none, none, some X, none, none, none, some X, none] O X).2), (4, (minimaxL 6 [some O, none, none, none, some X, none, none, some X, none] O X).2), (5, (minimaxL 6 [some O, none, none, none, none, some X, none, some X, none] O X).2), (6, (minimaxL 6 [some O, none, none, none, none, none, some X, some X, none] O X).2), (8, (minimaxL 6 [some O, none, none, none, none, none, none, some X, some X] O X).2)] X = (some 6, 1)
  rw [mmv_1694, mmv_2566, mmv_3234, mmv_3637, mmv_3956, mmv_4164, mmv_4256]
  rfl

theorem mmv_4265 : minimaxL 5 [none, some O, some O, none, none, none, none, some X, some X] X O = (some 6, 1) := rfl

theorem mmv_4266 : minimaxL 5 [none, some O, none, some O, none, none, none, some X, some X] X O = (some 6, 1) := rfl

theorem mmv_4267 : minimaxL 5 [none, some O, none, none, some O, none, none, some X, some X] X O = (some 6, 1) := rfl

theorem mmv_4268 : minimaxL 5 [none, some O, none, none, none, some O, none, some X, some X] X O = (some 6, 1) := rfl

theorem mmv_4269 : minimaxL 5 [none, some O, none, none, none, none, some O, some X, some X] X O = (some 2, 0) := by
  rw [minimaxL_succ 4 [none, some O, none, none, none, none, some O, some X, some X] X O [0, 2, 3, 4, 5] rfl rfl (List.cons_ne_nil _ _)]
  show pickBest [(0, (minimaxL 4 [some X, some O, none, none, none, none, some O, some X, some X] O X).2), (2, (minimaxL 4 [none, some O, some X, none, none, none, some O, some X, some X] O X).2), (3, (minimaxL 4 [none, some O, none, some X, none, none, some O, some X, some X] O X).2), (4, (minimaxL 4 [none, some O, none, none, some X, none, some O, some X, some X] O X).2), (5, (minimaxL 4 [none, some O, none, none, none, some X, some O, some X, some X] O X).2)] X = (some 2, 0)
  rw [mmv_0442, mmv_2813, mmv_3385, mmv_3765, mmv_4039]
  rfl

theorem mmv_4264 : minimaxL 6 [none, some O, none, none, none, none, none, some X, some X] O X = (some 6, 0) := by
  rw [minimaxL_succ 5 [none, some O, none, none, none, none, none, some X, some X] O X [0, 2, 3, 4, 5, 6] rfl rfl (List.cons_ne_nil _ _)]
  show pickBest [(0, (minimaxL 5 [some O, some O, none, none, none, none, none, some X, some X] X O).2), (2, (minimaxL 5 [none, some O, some O, none, none, none, none, some X, some X] X O).2), (3, (minimaxL 5 [none, some O, none, some O, none, none, none, some X, some X] X O).2), (4, (minimaxL 5 [none, some O, none, none, some O, none, none, some X, some X] X O).2), (5, (minimaxL 5 [none, some O, none, none, none, some O, none, some X, some X] X O).2), (6, (minimaxL 5 [none, some O, none, none, none, none, some O, some X, some X] X O).2)] O = (some 6, 0)
  rw [mmv_4257, mmv_4265, mmv_4266, mmv_4267, mmv_4268, mmv_4269]
  rfl

theorem mmv_4263 : minimaxL 7 [none, some O, none, none, none, none, none, some X, none] X O = (some 8, 0) := by
  rw [minimaxL_succ 6 [none, some O, none, none, none, none, none, some X, none] X O [0, 2, 3, 4, 5, 6, 8] rfl rfl (List.cons_ne_nil _ _)]
  show pickBest [(0, (minimaxL 6 [some X, some O, none, none, none, none, none, some X, none] O X).2), (2, (minimaxL 6 [none, some O, some X, none, none, none, none, some X, none] O X).2), (3, (minimaxL 6 [none, some O, none, some X, none, none, none, some X, none] O X).2), (4, (minimaxL 6 [none, some O, none, none, some X, none, none, some X, none] O X).2), (5, (minimaxL 6 [none, some O, none, none, none, some X, none, some X, none] O X).2), (6, (minimaxL 6 [none, some O, none, none, none, none, some X, some X, none] O X).2), (8, (minimaxL 6 [none, some O, none, none, none, none, none, some X, some X] O X).2)] X = (some 8, 0)
  rw [mmv_0394, mmv_2783, mmv_3355, mmv_3737, mmv_4025, mmv_4186, mmv_4264]
  rfl

theorem mmv_4272 : minimaxL 5 [none, none, some O, some O, none, none, none, some X, some X] X O = (some 6, 1) := rfl

theorem mmv_4273 : minimaxL 5 [none, none, some O, none, some O, none, none, some X, some X] X O = (some 6, 1) := rfl

theorem mmv_4274 : minimaxL 5 [none, none, some O, none, none, some O, none, some X, some X] X O = (some 6, 1) := rfl

theorem mmv_4277 : minimaxL 3 [some O, none, some O, none, some X, none, some O, some X, some X] X O = (some 1, 1) := rfl

theorem mmv_4278 : minimaxL 3 [none, none, some O, some O, some X, none, some O, some X, some X] X O = (some 1, 1) := rfl

theorem mmv_4279 : minimaxL 3 [none, none, some O, none, some X, some O, some O, some X, some X] X O = (some 1, 1) := rfl

theorem mmv_4276 : minimaxL 4 [none, none, some O, none, some X, none, some O, some X, some X] O X = (some 0, 1) := by
  rw [minimaxL_succ 3 [none, none, some O, none, some X, none, some O, some X, some X] O X [0, 1, 3, 5] rfl rfl (List.cons_ne_nil _ _)]
  show pickBest [(0, (minimaxL 3 [some O, none, some O, none, some X, none, some O, some X, some X] X O).2), (1, (minimaxL 3 [none, some O, some O, none, some X, none, some O, some X, some X] X O).2), (3, (minimaxL 3 [none, none, some O, some O, some X, none, some O, some X, some X] X O).2), (5, (minimaxL 3 [none, none, some O, none, some X, some O, some O, some X, some X] X O).2)] O = (some 0, 1)
  rw [mmv_4277, mmv_3768, mmv_4278, mmv_4279]
  rfl

theorem mmv_4275 : minimaxL 5 [none, none, some O, none, none, none, some O, some X, some X] X O = (some 4, 1) := by
  rw [minimaxL_succ 4 [none, none, some O, none, none, none, some O, some X, some X] X O [0, 1, 3, 4, 5] rfl rfl (List.cons_ne_nil _ _)]
  show pickBest [(0, (minimaxL 4 [some X, none, some O, none, none, none, some O, some X, some X] O X).2), (1, (minimaxL 4 [none, some X, some O, none, none, none, some O, some X, some X] O X).2), (3, (minimaxL 4 [none, none, some O, some X, none, none, some O, some X, some X] O X).2), (4, (minimaxL 4 [none, none, some O, none, some X, none, some O, some X, some X] O X).2), (5, (minimaxL 4 [none, none, some O, none, none, some X, some O, some X, some X] O X).2)] X = (some 4, 1)
  rw [mmv_0742, mmv_1940, mmv_3480, mmv_4276, mmv_4096]
  rfl

theorem mmv_4271 : minimaxL 6 [none, none, some O, none, none, none, none, some X, some X] O X = (some 0, 1) := by
  rw [minimaxL_succ 5 [none, none, some O, none, none, none, none, some X, some X] O X [0, 1, 3, 4, 5, 6] rfl rfl (List.cons_ne_nil _ _)]
  show pickBest [(0, (minimaxL 5 [some O, none, some O, none, none, none, none, some X, some X] X O).2), (1, (minimaxL 5 [none, some O, some O, none, none, none, none, some X, some X] X O).2), (3, (minimaxL 5 [none, none, some O, some O, none, none, none, some X, some X] X O).2), (4, (minimaxL 5 [none, none, some O, none, some O, none, none, some X, some X] X O).2), (5, (minimaxL 5 [none, none, some O, none, none, some O, none, some X, some X] X O).2), (6, (minimaxL 5 [none, none, some O, none, none, none, some O, some X, some X] X O).2)] O = (some 0, 1)
  rw [mmv_4258, mmv_4265, mmv_4272, mmv_4273, mmv_4274, mmv_4275]
  rfl

theorem mmv_4270 : minimaxL 7 [none, none, some O, none, none, none, none, some X, none] X O = (some 8, 1) := by
  rw [minimaxL_succ 6 [none, none, some O, none, none, none, none, some X, none] X O [0, 1, 3, 4, 5, 6, 8] rfl rfl (List.cons_ne_nil _ _)]
  show pickBest [(0, (minimaxL 6 [some X, none, some O, none, none, none, none, some X, none] O X).2), (1, (minimaxL 6 [none, some X, some O, none, none, none, none, some X, none] O X).2), (3, (minimaxL 6 [none, none, some O, some X, none, none, none, some X, none] O X).2), (4, (minimaxL 6 [none, none, some O, none, some X, none, none, some X, none] O X).2), (5, (minimaxL 6 [none, none, some O, none, none, some X, none, some X, none] O X).2), (6, (minimaxL 6 [none, none, some O, none, none, none, some X, some X, none] O X).2), (8, (minimaxL 6 [none, none, some O, none, none, none, none, some X, some X] O X).2)] X = (some 8, 1)
  rw [mmv_0715, mmv_1915, mmv_3462, mmv_3841, mmv_4083, mmv_4204, mmv_4271]
  rfl

theorem mmv_4282 : minimaxL 5 [none, none, none, some O, some O, none, none, some X, some X] X O = (some 6, 1) := rfl

theorem mmv_4283 : minimaxL 5 [none, none, none, some O, none, some O, none, some X, some X] X O = (some 6, 1) := rfl

theorem mmv_4285 : minimaxL 4 [none, none, none, some O, some X, none, some O, some X, some X] O X = (some 0, -1) := rfl

theorem mmv_4284 : minimaxL 5 [none, none, none, some O, none, none, some O, some X, some X] X O = (some 5, -1) := by
  rw [minimaxL_succ 4 [none, none, none, some O, none, none, some O, some X, some X] X O [0, 1, 2, 4, 5] rfl rfl (List.cons_ne_nil _ _)]
  show pickBest [(0, (minimaxL 4 [some X, none, none, some O, none, none, some O, some X, some X] O X).2), (1, (minimaxL 4 [none, some X, none, some O, none, none, some O, some X, some X] O X).2), (2, (minimaxL 4 [none, none, some X, some O, none, none, some O, some X, some X] O X).2), (4, (minimaxL 4 [none, none, none, some O, some X, none, some O, some X, some X] O X).2), (5, (minimaxL 4 [none, none, none, some O, none, some X, some O, some X, some X] O X).2)] X = (some 5, -1)
  rw [mmv_0927, mmv_2083, mmv_2892, mmv_4285, mmv_4127]
  rfl

theorem mmv_4281 : minimaxL 6 [none, none, none, some O, none, none, none, some X, some X] O X = (some 6, -1) := by
  rw [minimaxL_succ 5 [none, none, none, some O, none, none, none, some X, some X] O X [0, 1, 2, 4, 5, 6] rfl rfl (List.cons_ne_nil _ _)]
  show pickBest [(0, (minimaxL 5 [some O, none, none, some O, none, none, none, some X, some X] X O).2), (1, (minimaxL 5 [none, some O, none, some O, none, none, none, some X, some X] X O).2), (2, (minimaxL 5 [none, none, some O, some O, none, none, none, some X, some X] X O).2), (4, (minimaxL 5 [none, none, none, some O, some O, none, none, some X, some X] X O).2), (5, (minimaxL 5 [none, none, none, some O, none, some O, none, some X, some X] X O).2), (6, (minimaxL 5 [none, none, none, some O, none, none, some O, some X, some X] X O).2)] O = (some 6, -1)
  rw [mmv_4259, mmv_4266, mmv_4272, mmv_4282, mmv_4283, mmv_4284]
  rfl

theorem mmv_4280 : minimaxL 7 [none, none, none, some O, none, none, none, some X, none] X O = (some 6, 1) := by
  rw [minimaxL_succ 6 [none, none, none, some O, none, none, none, some X, none] X O [0, 1, 2, 4, 5, 6, 8] rfl rfl (List.cons_ne_nil _ _)]
  show pickBest [(0, (minimaxL 6 [some X, none, none, some O, none, none, none, some X, none] O X).2), (1, (minimaxL 6 [none, some X, none, some O, none, none, none, some X, none] O X).2), (2, (minimaxL 6 [none, none, some X, some O, none, none, none, some X, none] O X).2), (4, (minimaxL 6 [none, none, none, some O, some X, none, none, some X, none] O X).2), (5, (minimaxL 6 [none, none, none, some O, none, some X, none, some X, none] O X).2), (6, (minimaxL 6 [none, none, none, some O, none, none, some X, some X, none] O X).2), (8, (minimaxL 6 [none, none, none, some O, none, none, none, some X, some X] O X).2)] X = (some 6, 1)
  rw [mmv_0906, mmv_2060, mmv_2876, mmv_3873, mmv_4122, mmv_4218, mmv_4281]
  rfl

theorem mmv_4288 : minimaxL 5 [none, none, none, none, some O, some O, none, some X, some X] X O = (some 6, 1) := rfl

theorem mmv_4289 : minimaxL 5 [none, none, none, none, some O, none, some O, some X, some X] X O = (some 2, 0) := by
  rw [minimaxL_succ 4 [none, none, none, none, some O, none, some O, some X, some X] X O [0, 1, 2, 3, 5] rfl rfl (List.cons_ne_nil _ _)]
  show pickBest [(0, (minimaxL 4 [some X, none, none, none, some O, none, some O, some X, some X] O X).2), (1, (minimaxL 4 [none, some X, none, none, some O, none, some O, some X, some X] O X).2), (2, (minimaxL 4 [none, none, some X, none, some O, none, some O, some X, some X] O X).2), (3, (minimaxL 4 [none, none, none, some X, some O, none, some O, some X, some X] O X).2), (5, (minimaxL 4 [none, none, none, none, some O, some X, some O, some X, some X] O X).2)] X = (some 2, 0)
  rw [mmv_1026, mmv_2220, mmv_2982, mmv_3537, mmv_4141]
  rfl

theorem mmv_4287 : minimaxL 6 [none, none, none, none, some O, none, none, some X, some X] O X = (some 6, 0) := by
  rw [minimaxL_succ 5 [none, none, none, none, some O, none, none, some X, some X] O X [0, 1, 2, 3, 5, 6] rfl rfl (List.cons_ne_nil _ _)]
  show pickBest [(0, (minimaxL 5 [some O, none, none, none, some O, none, none, some X, some X] X O).2), (1, (minimaxL 5 [none, some O, none, none, some O, none, none, some X, some X] X O).2), (2, (minimaxL 5 [none, none, some O, none, some O, none, none, some X, some X] X O).2), (3, (minimaxL 5 [none, none, none, some O, some O, none, none, some X, some X] X O).2), (5, (minimaxL 5 [none, none, none, none, some O, some O, none, some X, some X] X O).2), (6, (minimaxL 5 [none, none, none, none, some O, none, some O, some X, some X] X O).2)] O = (some 6, 0)
  rw [mmv_4260, mmv_4267, mmv_4273, mmv_4282, mmv_4288, mmv_4289]
  rfl

theorem mmv_4286 : minimaxL 7 [none, none, none, none, some O, none, none, some X, none] X O = (some 8, 0) := by
  rw [minimaxL_succ 6 [none, none, none, none, some O, none, none, some X, none] X O [0, 1, 2, 3, 5, 6, 8] rfl rfl (List.cons_ne_nil _ _)]
  show pickBest [(0, (minimaxL 6 [some X, none, none, none, some O, none, none, some X, none] O X).2), (1, (minimaxL 6 [none, some X, none, none, some O, none, none, some X, none] O X).2), (2, (minimaxL 6 [none, none, some X, none, some O, none, none, some X, none] O X).2), (3, (minimaxL 6 [none, none, none, some X, some O, none, none, some X, none] O X).2), (5, (minimaxL 6 [none, none, none, none, some O, some X, none, some X, none] O X).2), (6, (minimaxL 6 [none, none, none, none, some O, none, some X, some X, none] O X).2), (8, (minimaxL 6 [none, none, none, none, some O, none, none, some X, some X] O X).2)] X = (some 8, 0)
  rw [mmv_1007, mmv_2209, mmv_2975, mmv_3530, mmv_4139, mmv_4234, mmv_4287]
  rfl

theorem mmv_4294 : minimaxL 3 [none, none, none, some O, some X, some O, some O, some X, some X] X O = (some 1, 1) := rfl

theorem mmv_4293 : minimaxL 4 [none, none, none, none, some X, some O, some O, some X, some X] O X = (some 0, 1) := by
  rw [minimaxL_succ 3 [none, none, none, none, some X, some O, some O, some X, some X] O X [0, 1, 2, 3] rfl rfl (List.cons_ne_nil _ _)]
  show pickBest [(0, (minimaxL 3 [some O, none, none, none, some X, some O, some O, some X, some X] X O).2), (1, (minimaxL 3 [none, some O, none, none, some X, some O, some O, some X, some X] X O).2), (2, (minimaxL 3 [none, none, some O, none, some X, some O, some O, some X, some X] X O).2), (3, (minimaxL 3 [none, none, none, some O, some X, some O, some O, some X, some X] X O).2)] O = (some 0, 1)
  rw [mmv_3674, mmv_3759, mmv_4279, mmv_4294]
  rfl

theorem mmv_4292 : minimaxL 5 [none, none, none, none, none, some O, some O, some X, some X] X O = (some 4, 1) := by
  rw [minimaxL_succ 4 [none, none, none, none, none, some O, some O, some X, some X] X O [0, 1, 2, 3, 4] rfl rfl (List.cons_ne_nil _ _)]
  show pickBest [(0, (minimaxL 4 [some X, none, none, none, none, some O, some O, some X, some X] O X).2), (1, (minimaxL 4 [none, some X, none, none, none, some O, some O, some X, some X] O X).2), (2, (minimaxL 4 [none, none, some X, none, none, some O, some O, some X, some X] O X).2), (3, (minimaxL 4 [none, none, none, some X, none, some O, some O, some X, some X] O X).2), (4, (minimaxL 4 [none, none, none, none, some X, some O, some O, some X, some X] O X).2)] X = (some 4, 1)
  rw [mmv_1134, mmv_2315, mmv_3040, mmv_3570, mmv_4293]
  rfl

theorem mmv_4291 : minimaxL 6 [none, none, none, none, none, some O, none, some X, some X] O X = (some 0, 1) := by
  rw [minimaxL_succ 5 [none, none, none, none, none, some O, none, some X, some X] O X [0, 1, 2, 3, 4, 6] rfl rfl (List.cons_ne_nil _ _)]
  show pickBest [(0, (minimaxL 5 [some O, none, none, none, none, some O, none, some X, some X] X O).2), (1, (minimaxL 5 [none, some O, none, none, none, some O, none, some X, some X] X O).2), (2, (minimaxL 5 [none, none, some O, none, none, some O, none, some X, some X] X O).2), (3, (minimaxL 5 [none, none, none, some O, none, some O, none, some X, some X] X O).2), (4, (minimaxL 5 [none, none, none, none, some O, some O, none, some X, some X] X O).2), (6, (minimaxL 5 [none, none, none, none, none, some O, some O, some X, some X] X O).2)] O = (some 0, 1)
  rw [mmv_4261, mmv_4268, mmv_4274, mmv_4283, mmv_4288, mmv_4292]
  rfl

theorem mmv_4290 : minimaxL 7 [none, none, none, none, none, some O, none, some X, none] X O = (some 8, 1) := by
  rw [minimaxL_succ 6 [none, none, none, none, none, some O, none, some X, none] X O [0, 1, 2, 3, 4, 6, 8] rfl rfl (List.cons_ne_nil _ _)]
  show pickBest [(0, (minimaxL 6 [some X, none, none, none, none, some O, none, some X, none] O X).2), (1, (minimaxL 6 [none, some X, none, none, none, some O, none, some X, none] O X).2), (2, (minimaxL 6 [none, none, some X, none, none, some O, none, some X, none] O X).2), (3, (minimaxL 6 [none, none, none, some X, none, some O, none, some X, none] O X).2), (4, (minimaxL 6 [none, none, none, none, some X, some O, none, some X, none] O X).2), (6, (minimaxL 6 [none, none, none, none, none, some O, some X, some X, none] O X).2), (8, (minimaxL 6 [none, none, none, none, none, some O, none, some X, some X] O X).2)] X = (some 8, 1)
  rw [mmv_1124, mmv_2303, mmv_3035, mmv_3568, mmv_3885, mmv_4241, mmv_4291]
  rfl

theorem mmv_4296 : minimaxL 6 [none, none, none, none, none, none, some O, some X, some X] O X = (some 0, -1) := by
  rw [minimaxL_succ 5 [none, none, none, none, none, none, some O, some X, some X] O X [0, 1, 2, 3, 4, 5] rfl rfl (List.cons_ne_nil _ _)]
  show pickBest [(0, (minimaxL 5 [some O, none, none, none, none, none, some O, some X, some X] X O).2), (1, (minimaxL 5 [none, some O, none, none, none, none, some O, some X, some X] X O).2), (2, (minimaxL 5 [none, none, some O, none, none, none, some O, some X, some X] X O).2), (3, (minimaxL 5 [none, none, none, some O, none, none, some O, some X, some X] X O).2), (4, (minimaxL 5 [none, none, none, none, some O, none, some O, some X, some X] X O).2), (5, (minimaxL 5 [none, none, none, none, none, some O, some O, some X, some X] X O).2)] O = (some 0, -1)
  rw [mmv_4262, mmv_4269, mmv_4275, mmv_4284, mmv_4289, mmv_4292]
  rfl

theorem mmv_4295 : minimaxL 7 [none, none, none, none, none, none, some O, some X, none] X O = (some 4, 0) := by
  rw [minimaxL_succ 6 [none, none, none, none, none, none, some O, some X, none] X O [0, 1, 2, 3, 4, 5, 8] rfl rfl (List.cons_ne_nil _ _)]
  show pickBest [(0, (minimaxL 6 [some X, none, none, none, none, none, some O, some X, none] O X).2), (1, (minimaxL 6 [none, some X, none, none, none, none, some O, some X, none] O X).2), (2, (minimaxL 6 [none, none, some X, none, none, none, some O, some X, none] O X).2), (3, (minimaxL 6 [none, none, none, some X, none, none, some O, some X, none] O X).2), (4, (minimaxL 6 [none, none, none, none, some X, none, some O, some X, none] O X).2), (5, (minimaxL 6 [none, none, none, none, none, some X, some O, some X, none] O X).2), (8, (minimaxL 6 [none, none, none, none, none, none, some O, some X, some X] O X).2)] X = (some 4, 0)
  rw [mmv_1192, mmv_2359, mmv_3095, mmv_3585, mmv_3895, mmv_4147, mmv_4296]
  rfl

theorem mmv_4297 : minimaxL 7 [none, none, none, none, none, none, none, some X, some O] X O = (some 5, 0) := by
  rw [minimaxL_succ 6 [none, none, none, none, none, none, none, some X, some O] X O [0, 1, 2, 3, 4, 5, 6] rfl rfl (List.cons_ne_nil _ _)]
  show pickBest [(0, (minimaxL 6 [some X, none, none, none, none, none, none, some X, some O] O X).2), (1, (minimaxL 6 [none, some X, none, none, none, none, none, some X, some O] O X).2), (2, (minimaxL 6 [none, none, some X, none, none, none, none, some X, some O] O X).2), (3, (minimaxL 6 [none, none, none, some X, none, none, none, some X, some O] O X).2), (4, (minimaxL 6 [none, none, none, none, some X, none, none, some X, some O] O X).2), (5, (minimaxL 6 [none, none, none, none, none, some X, none, some X, some O] O X).2), (6, (minimaxL 6 [none, none, none, none, none, none, some X, some X, some O] O X).2)] X = (some 5, 0)
  rw [mmv_1231, mmv_2395, mmv_3127, mmv_3607, mmv_3908, mmv_4161, mmv_4253]
  rfl

theorem mmv_4254 : minimaxL 8 [none, none, none, none, none, none, none, some X, none] O X = (some 1, 0) := by
  rw [minimaxL_succ 7 [none, none, none, none, none, none, none, some X, none] O X [0, 1, 2, 3, 4, 5, 6, 8] rfl rfl (List.cons_ne_nil _ _)]
  show pickBest [(0, (minimaxL 7 [some O, none, none, none, none, none, none, some X, none] X O).2), (1, (minimaxL 7 [none, some O, none, none, none, none, none, some X, none] X O).2), (2, (minimaxL 7 [none, none, some O, none, none, none, none, some X, none] X O).2), (3, (minimaxL 7 [none, none, none, some O, none, none, none, some X, none] X O).2), (4, (minimaxL 7 [none, none, none, none, some O, none, none, some X, none] X O).2), (5, (minimaxL 7 [none, none, none, none, none, some O, none, some X, none] X O).2), (6, (minimaxL 7 [none, none, none, none, none, none, some O, some X, none] X O).2), (8, (minimaxL 7 [none, none, none, none, none, none, none, some X, some O] X O).2)] O = (some 1, 0)
  rw [mmv_4255, mmv_4263, mmv_4270, mmv_4280, mmv_4286, mmv_4290, mmv_4295, mmv_4297]
  rfl

theorem mmv_4299 : minimaxL 7 [some O, none, none, none, none, none, none, none, some X] X O = (some 6, 1) := by
  rw [minimaxL_succ 6 [some O, none, none, none, none, none, none, none, some X] X O [1, 2, 3, 4, 5, 6, 7] rfl rfl (List.cons_ne_nil _ _)]
  show pickBest [(1, (minimaxL 6 [some O, some X, none, none, none, none, none, none, some X] O X).2), (2, (minimaxL 6 [some O, none, some X, none, none, none, none, none, some X] O X).2), (3, (minimaxL 6 [some O, none, none, some X, none, none, none, none, some X] O X).2), (4, (minimaxL 6 [some O, none, none, none, some X, none, none, none, some X] O X).2), (5, (minimaxL 6 [some O, none, none, none, none, some X, none, none, some X] O X).2), (6, (minimaxL 6 [some O, none, none, none, none, none, some X, none, some X] O X).2), (7, (minimaxL 6 [some O, none, none, none, none, none, none, some X, some X] O X).2)] X = (some 6, 1)
  rw [mmv_1708, mmv_2628, mmv_3277, mmv_3647, mmv_3977, mmv_4175, mmv_4256]
  rfl

theorem mmv_4300 : minimaxL 7 [none, some O, none, none, none, none, none, none, some X] X O = (some 6, 1) := by
  rw [minimaxL_succ 6 [none, some O, none, none, none, none, none, none, some X] X O [0, 2, 3, 4, 5, 6, 7] rfl rfl (List.cons_ne_nil _ _)]
  show pickBest [(0, (minimaxL 6 [some X, some O, none, none, none, none, none, none, some X] O X).2), (2, (minimaxL 6 [none, some O, some X, none, none, none, none, none, some X] O X).2), (3, (minimaxL 6 [none, some O, none, some X, none, none, none, none, some X] O X).2), (4, (minimaxL 6 [none, some O, none, none, some X, none, none, none, some X] O X).2), (5, (minimaxL 6 [none, some O, none, none, none, some X, none, none, some X] O X).2), (6, (minimaxL 6 [none, some O, none, none, none, none, some X, none, some X] O X).2), (7, (minimaxL 6 [none, some O, none, none, none, none, none, some X, some X] O X).2)] X = (some 6, 1)
  rw [mmv_0446, mmv_2817, mmv_3400, mmv_3778, mmv_4044, mmv_4192, mmv_4264]
  rfl

theorem mmv_4301 : minimaxL 7 [none, none, some O, none, none, none, none, none, some X] X O = (some 7, 1) := by
  rw [minimaxL_succ 6 [none, none, some O, none, none, none, none, none, some X] X O [0, 1, 3, 4, 5, 6, 7] rfl rfl (List.cons_ne_nil _ _)]
  show pickBest [(0, (minimaxL 6 [some X, none, some O, none, none, none, none, none, some X] O X).2), (1, (minimaxL 6 [none, some X, some O, none, none, none, none, none, some X] O X).2), (3, (minimaxL 6 [none, none, some O, some X, none, none, none, none, some X] O X).2), (4, (minimaxL 6 [none, none, some O, none, some X, none, none, none, some X] O X).2), (5, (minimaxL 6 [none, none, some O, none, none, some X, none, none, some X] O X).2), (6, (minimaxL 6 [none, none, some O, none, none, none, some X, none, some X] O X).2), (7, (minimaxL 6 [none, none, some O, none, none, none, none, some X, some X] O X).2)] X = (some 7, 1)
  rw [mmv_0746, mmv_1922, mmv_3489, mmv_3846, mmv_4099, mmv_4209, mmv_4271]
  rfl

theorem mmv_4302 : minimaxL 7 [none, none, none, some O, none, none, none, none, some X] X O = (some 6, 1) := by
  rw [minimaxL_succ 6 [none, none, none, some O, none, none, none, none, some X] X O [0, 1, 2, 4, 5, 6, 7] rfl rfl (List.cons_ne_nil _ _)]
  show pickBest [(0, (minimaxL 6 [some X, none, none, some O, none, none, none, none, some X] O X).2), (1, (minimaxL 6 [none, some X, none, some O, none, none, none, none, some X] O X).2), (2, (minimaxL 6 [none, none, some X, some O, none, none, none, none, some X] O X).2), (4, (minimaxL 6 [none, none, none, some O, some X, none, none, none, some X] O X).2), (5, (minimaxL 6 [none, none, none, some O, none, some X, none, none, some X] O X).2), (6, (minimaxL 6 [none, none, none, some O, none, none, some X, none, some X] O X).2), (7, (minimaxL 6 [none, none, none, some O, none, none, none, some X, some X] O X).2)] X = (some 6, 1)
  rw [mmv_0939, mmv_2067, mmv_2904, mmv_3877, mmv_4129, mmv_4224, mmv_4281]
  rfl

theorem mmv_4303 : minimaxL 7 [none, none, none, none, some O, none, none, none, some X] X O = (some 7, 0) := by
  rw [minimaxL_succ 6 [none, none, none, none, some O, none, none, none, some X] X O [0, 1, 2, 3, 5, 6, 7] rfl rfl (List.cons_ne_nil _ _)]
  show pickBest [(0, (minimaxL 6 [some X, none, none, none, some O, none, none, none, some X] O X).2), (1, (minimaxL 6 [none, some X, none, none, some O, none, none, none, some X] O X).2), (2, (minimaxL 6 [none, none, some X, none, some O, none, none, none, some X] O X).2), (3, (minimaxL 6 [none, none, none, some X, some O, none, none, none, some X] O X).2), (5, (minimaxL 6 [none, none, none, none, some O, some X, none, none, some X] O X).2), (6, (minimaxL 6 [none, none, none, none, some O, none, some X, none, some X] O X).2), (7, (minimaxL 6 [none, none, none, none, some O, none, none, some X, some X] O X).2)] X = (some 7, 0)
  rw [mmv_1043, mmv_2223, mmv_2986, mmv_3540, mmv_4143, mmv_4237, mmv_4287]
  rfl

theorem mmv_4304 : minimaxL 7 [none, none, none, none, none, some O, none, none, some X] X O = (some 7, 1) := by
  rw [minimaxL_succ 6 [none, none, none, none, none, some O, none, none, some X] X O [0, 1, 2, 3, 4, 6, 7] rfl rfl (List.cons_ne_nil _ _)]
  show pickBest [(0, (minimaxL 6 [some X, none, none, none, none, some O, none, none, some X] O X).2), (1, (minimaxL 6 [none, some X, none, none, none, some O, none, none, some X] O X).2), (2, (minimaxL 6 [none, none, some X, none, none, some O, none, none, some X] O X).2), (3, (minimaxL 6 [none, none, none, some X, none, some O, none, none, some X] O X).2), (4, (minimaxL 6 [none, none, none, none, some X, some O, none, none, some X] O X).2), (6, (minimaxL 6 [none, none, none, none, none, some O, some X, none, some X] O X).2), (7, (minimaxL 6 [none, none, none, none, none, some O, none, some X, some X] O X).2)] X = (some 7, 1)
  rw [mmv_1143, mmv_2306, mmv_3053, mmv_3573, mmv_3888, mmv_4244, mmv_4291]
  rfl

theorem mmv_4305 : minimaxL 7 [none, none, none, none, none, none, some O, none, some X] X O = (some 5, 1) := by
  rw [minimaxL_succ 6 [none, none, none, none, none, none, some O, none, some X] X O [0, 1, 2, 3, 4, 5, 7] rfl rfl (List.cons_ne_nil _ _)]
  show pickBest [(0, (minimaxL 6 [some X, none, none, none, none, none, some O, none, some X] O X).2), (1, (minimaxL 6 [none, some X, none, none, none, none, some O, none, some X] O X).2), (2, (minimaxL 6 [none, none, some X, none, none, none, some O, none, some X] O X).2), (3, (minimaxL 6 [none, none, none, some X, none, none, some O, none, some X] O X).2), (4, (minimaxL 6 [none, none, none, none, some X, none, some O, none, some X] O X).2), (5, (minimaxL 6 [none, none, none, none, none, some X, some O, none, some X] O X).2), (7, (minimaxL 6 [none, none, none, none, none, none, some O, some X, some X] O X).2)] X = (some 5, 1)
  rw [mmv_1197, mmv_2361, mmv_3099, mmv_3590, mmv_3897, mmv_4150, mmv_4296]
  rfl

theorem mmv_4306 : minimaxL 7 [none, none, none, none, none, none, none, some O, some X] X O = (some 5, 1) := by
  rw [minimaxL_succ 6 [none, none, none, none, none, none, none, some O, some X] X O [0, 1, 2, 3, 4, 5, 6] rfl rfl (List.cons_ne_nil _ _)]
  show pickBest [(0, (minimaxL 6 [some X, none, none, none, none, none, none, some O, some X] O X).2), (1, (minimaxL 6 [none, some X, none, none, none, none, none, some O, some X] O X).2), (2, (minimaxL 6 [none, none, some X, none, none, none, none, some O, some X] O X).2), (3, (minimaxL 6 [none, none, none, some X, none, none, none, some O, some X] O X).2), (4, (minimaxL 6 [none, none, none, none, some X, none, none, some O, some X] O X).2), (5, (minimaxL 6 [none, none, none, none, none, some X, none, some O, some X] O X).2), (6, (minimaxL 6 [none, none, none, none, none, none, some X, some O, some X] O X).2)] X = (some 5, 1)
  rw [mmv_1223, mmv_2388, mmv_3121, mmv_3602, mmv_3904, mmv_4158, mmv_4251]
  rfl

theorem mmv_4298 : minimaxL 8 [none, none, none, none, none, none, none, none, some X] O X = (some 4, 0) := by
  rw [minimaxL_succ 7 [none, none, none, none, none, none, none, none, some X] O X [0, 1, 2, 3, 4, 5, 6, 7] rfl rfl (List.cons_ne_nil _ _)]
  show pickBest [(0, (minimaxL 7 [some O, none, none, none, none, none, none, none, some X] X O).2), (1, (minimaxL 7 [none, some O, none, none, none, none, none, none, some X] X O).2), (2, (minimaxL 7 [none, none, some O, none, none, none, none, none, some X] X O).2), (3, (minimaxL 7 [none, none, none, some O, none, none, none, none, some X] X O).2), (4, (minimaxL 7 [none, none, none, none, some O, none, none, none, some X] X O).2), (5, (minimaxL 7 [none, none, none, none, none, some O, none, none, some X] X O).2), (6, (minimaxL 7 [none, none, none, none, none, none, some O, none, some X] X O).2), (7, (minimaxL 7 [none, none, none, none, none, none, none, some O, some X] X O).2)] O = (some 4, 0)
  rw [mmv_4299, mmv_4300, mmv_4301, mmv_4302, mmv_4303, mmv_4304, mmv_4305, mmv_4306]
  rfl

theorem mmv_0001 : minimaxL 9 [none, none, none, none, none, none, none, none, none] X O = (some 8, 0) := by
  rw [minimaxL_succ 8 [none, none, none, none, none, none, none, none, none] X O [0, 1, 2, 3, 4, 5, 6, 7, 8] rfl rfl (List.cons_ne_nil _ _)]
  show pickBest [(0, (minimaxL 8 [some X, none, none, none, none, none, none, none, none] O X).2), (1, (minimaxL 8 [none, some X, none, none, none, none, none, none, none] O X).2), (2, (minimaxL 8 [none, none, some X, none, none, none, none, none, none] O X).2), (3, (minimaxL 8 [none, none, none, some X, none, none, none, none, none] O X).2), (4, (minimaxL 8 [none, none, none, none, some X, none, none, none, none] O X).2), (5, (minimaxL 8 [none, none, none, none, none, some X, none, none, none] O X).2), (6, (minimaxL 8 [none, none, none, none, none, none, some X, none, none] O X).2), (7, (minimaxL 8 [none, none, none, none, none, none, none, some X, none] O X).2), (8, (minimaxL 8 [none, none, none, none, none, none, none, none, some X] O X).2)] X = (some 8, 0)
  rw [mmv_0002, mmv_1232, mmv_2396, mmv_3128, mmv_3608, mmv_3909, mmv_4162, mmv_4254, mmv_4298]
  rfl

/-- C4: on the empty board with `X` (MarkA) to move, `minimax` returns score 0 —
Tic-Tac-Toe is a forced draw under optimal play.  (The full result is `(some 8, 0)`:
see `mmv_0001` together with `minimaxL_eq_minimax`.) -/
theorem C4_empty_board_score_zero :
    (minimax (mkBoard [none, none, none, none, none, none, none, none, none]) X O).2 = 0 := by
  rw [← minimaxL_eq_minimax 9 [none, none, none, none, none, none, none, none, none] X O rfl
    (by decide)]
  rw [mmv_0001]
